import Mathlib

/-!
Fluctuating MRT lattice Boltzmann kernels (D3Q19).

Shallow embedding of `src/walberla_bridge/generated_kernels/FluctuatingMRTLatticeModel.cpp`
and `FluctuatingMRTLatticeModelAvx.cpp`.

Conventions of the embedding.

* Numbers.  `double` is read as an arbitrary field `K` of characteristic zero (exact
  arithmetic), except in `Binary64.construct_lattice_model` and `Binary64.set_viscosity`, which
  give the derivation of the relaxation rates with the rounding of binary64.  A decimal literal that is the 15-digit rounding of a fraction is read as that
  fraction:
  `0.333333333333333 = 1/3`, `0.666666666666667 = 2/3`, `0.166666666666667 = 1/6`,
  `0.142857142857143 = 1/7`, `0.0833333333333333 = 1/12`, `0.0714285714285714 = 1/14`,
  `0.0555555555555556 = 1/18`, `0.0952380952380952 = 2/21`, `0.0416666666666667 = 1/24`,
  `0.0357142857142857 = 1/28`, `0.0285714285714286 = 1/35`, `0.0857142857142857 = 3/35`,
  `0.0277777777777778 = 1/36`, `0.0238095238095238 = 1/42`, `0.119047619047619 = 5/42`,
  `0.0208333333333333 = 1/48`, `0.0178571428571429 = 1/56`, `0.0158730158730159 = 1/63`,
  `0.0142857142857143 = 1/70`, `0.0428571428571429 = 3/70`, `0.0138888888888889 = 1/72`,
  `0.00714285714285714 = 1/140`, `0.0214285714285714 = 3/140`, `0.00396825396825397 = 1/252`,
  `0.0198412698412698 = 5/252`.
  Finite decimals are exact (`0.125 = 1/8`, `0.0625 = 1/16`, `0.025 = 1/40`, ...); the
  irrational constants keep all printed digits (`2.4494897427831779` is
  `24494897427831779 / 10000000000000000`).
* Memory.  A field is a function of the cell index `(x, y, z)` counted from the data pointer
  handed to the kernel and of the slot `f`; the pointer
  `_data_pdfs + _stride_pdfs_0*(ctr_0 + a) + _stride_pdfs_1*(ctr_1 + b) + _stride_pdfs_2*(ctr_2 + c) + q*_stride_pdfs_3`
  is the cell `(ctr_0 + a, ctr_1 + b, ctr_2 + c)`, slot `q`.  Strides and alignment are not
  modelled; `int64_t` counters are integers.
* Locals.  Every `const double xi_n = ...;` of a loop body is one definition `xi_n s`, where
  `s : Site K` holds the kernel arguments and the three loop counters.  `store_q s` is the
  value written to slot `q` of the current cell.
* `sqrt` (from `<cmath>`) and `philox_double2` (from `philox_rand.h`) are not part of the
  sources at hand and are parameters of the kernels.
-/

set_option linter.unusedVariables false
set_option linter.unusedSectionVars false
set_option linter.unreachableTactic false
set_option linter.unusedTactic false
set_option linter.unnecessarySeqFocus false

namespace walberla

/-- Population field: cell `(x, y, z)` and slot `f < 19`. -/
abbrev PdfField (K : Type) := Int → Int → Int → Fin 19 → K

/-- Force-density field: cell `(x, y, z)` and component `f < 3`. -/
abbrev ForceField (K : Type) := Int → Int → Int → Fin 3 → K

/-- Conversion of an integer to `uint32_t`. -/
def u32 (i : Int) : Nat := (i % 4294967296).toNat

/-- Signature of the scalar `philox_double2(ctr0, ctr1, ctr2, ctr3, key0, key1, rnd1, rnd2)`:
six `uint32` inputs, two doubles out. -/
abbrev Philox (K : Type) := Nat → Nat → Nat → Nat → Nat → Nat → K × K

/-- Everything in scope inside the innermost loop of a kernel: the kernel arguments
(without sizes and strides) and the loop counters. -/
structure Site (K : Type) where
  sqrt : K → K
  philox_double2 : Philox K
  _data_force : ForceField K
  _data_pdfs : PdfField K
  block_offset_0 : Nat
  block_offset_1 : Nat
  block_offset_2 : Nat
  kT : K
  omega_bulk : K
  omega_even : K
  omega_odd : K
  omega_shear : K
  seed : Nat
  time_step : Nat
  ctr_0 : Int
  ctr_1 : Int
  ctr_2 : Int

/-- The C loop `for (i = lo; i < hi; i += step) state = body i state`, for `step > 0`. -/
def forLoop {σ : Type} (lo hi step : Int) (body : Int → σ → σ) (init : σ) : σ :=
  (List.range ((hi - lo + step - 1) / step).toNat).foldl
    (fun acc (k : Nat) => body (lo + step * (k : Int)) acc) init

/-- The nineteen scalar stores that end a loop body: slot `q` of cell `(x, y, z)` receives `v q`. -/
def storeSite {K : Type} (fld : PdfField K) (x y z : Int) (v : Fin 19 → K) : PdfField K :=
  fun x' y' z' q => if x' = x ∧ y' = y ∧ z' = z then v q else fld x' y' z' q

/-- The D3Q19 velocity set in the order C,N,S,W,E,T,B,NW,NE,SW,SE,TN,TS,TW,TE,BN,BS,BW,BE:
x components. -/
def cx : Fin 19 → Int := ![0, 0, 0, -1, 1, 0, 0, -1, 1, -1, 1, 0, 0, -1, 1, 0, 0, -1, 1]

/-- The D3Q19 velocity set: y components. -/
def cy : Fin 19 → Int := ![0, 1, -1, 0, 0, 0, 0, 1, 1, -1, -1, 1, -1, 0, 0, 1, -1, 0, 0]

/-- The D3Q19 velocity set: z components. -/
def cz : Fin 19 → Int := ![0, 0, 0, 0, 0, 1, -1, 0, 0, 0, 0, 1, 1, 1, 1, -1, -1, -1, -1]

/-- The D3Q19 velocity set, component `a` of velocity `q`. -/
def cvec (q : Fin 19) (a : Fin 3) : Int := ![cx q, cy q, cz q] a

variable {K : Type} [Field K]


namespace FluctuatingMRTLatticeModel

/-! ### Loop body of the scalar `kernel_collide` (lines 505-931) -/

namespace kernel_collide

def xi_40 (s : Site K) : K :=
  -s.omega_bulk

def xi_51 (s : Site K) : K :=
  -s.omega_shear

def xi_52 (s : Site K) : K :=
  xi_51 s + 2

def xi_53 (s : Site K) : K :=
  xi_52 s * (1 / 2)

def xi_58 (s : Site K) : K :=
  xi_52 s * (1 / 12)

def xi_63 (s : Site K) : K :=
  xi_52 s * (1 / 6)

def xi_73 (s : Site K) : K :=
  xi_52 s * (1 / 4)

def xi_78 (s : Site K) : K :=
  xi_52 s * (1 / 24)

def xi_105 (s : Site K) : K :=
  (24494897427831779 / 10000000000000000)

def xi_129 (s : Site K) : K :=
  s.omega_odd * (1 / 4)

def xi_144 (s : Site K) : K :=
  s.omega_odd * (1 / 12)

def xi_207 (s : Site K) : K :=
  s.omega_shear * (1 / 4)

def xi_222 (s : Site K) : K :=
  s.omega_odd * (1 / 24)

def xi_224 (s : Site K) : K :=
  s.omega_odd * (1 / 8)

def rr_0 (s : Site K) : K :=
  0

def xi_133 (s : Site K) : K :=
  rr_0 s * (1 / 6)

def xi_197 (s : Site K) : K :=
  rr_0 s * (1 / 12)

def xi_259 (s : Site K) : K :=
  s._data_pdfs s.ctr_0 s.ctr_1 s.ctr_2 8

def xi_260 (s : Site K) : K :=
  s._data_pdfs s.ctr_0 s.ctr_1 s.ctr_2 1

def xi_261 (s : Site K) : K :=
  s._data_pdfs s.ctr_0 s.ctr_1 s.ctr_2 5

def xi_262 (s : Site K) : K :=
  s._data_pdfs s.ctr_0 s.ctr_1 s.ctr_2 18

def xi_263 (s : Site K) : K :=
  s._data_pdfs s.ctr_0 s.ctr_1 s.ctr_2 0

def xi_264 (s : Site K) : K :=
  s._data_pdfs s.ctr_0 s.ctr_1 s.ctr_2 11

def xi_265 (s : Site K) : K :=
  s._data_pdfs s.ctr_0 s.ctr_1 s.ctr_2 10

def xi_266 (s : Site K) : K :=
  s._data_pdfs s.ctr_0 s.ctr_1 s.ctr_2 4

def xi_267 (s : Site K) : K :=
  s._data_pdfs s.ctr_0 s.ctr_1 s.ctr_2 6

def xi_268 (s : Site K) : K :=
  s._data_pdfs s.ctr_0 s.ctr_1 s.ctr_2 3

def xi_269 (s : Site K) : K :=
  s._data_pdfs s.ctr_0 s.ctr_1 s.ctr_2 7

def xi_270 (s : Site K) : K :=
  s._data_pdfs s.ctr_0 s.ctr_1 s.ctr_2 15

def xi_271 (s : Site K) : K :=
  s._data_force s.ctr_0 s.ctr_1 s.ctr_2 1

def xi_272 (s : Site K) : K :=
  s._data_pdfs s.ctr_0 s.ctr_1 s.ctr_2 14

def xi_273 (s : Site K) : K :=
  s._data_force s.ctr_0 s.ctr_1 s.ctr_2 2

def xi_274 (s : Site K) : K :=
  s._data_pdfs s.ctr_0 s.ctr_1 s.ctr_2 9

def xi_275 (s : Site K) : K :=
  s._data_pdfs s.ctr_0 s.ctr_1 s.ctr_2 13

def xi_276 (s : Site K) : K :=
  s._data_pdfs s.ctr_0 s.ctr_1 s.ctr_2 17

def xi_277 (s : Site K) : K :=
  s._data_force s.ctr_0 s.ctr_1 s.ctr_2 0

def xi_278 (s : Site K) : K :=
  s._data_pdfs s.ctr_0 s.ctr_1 s.ctr_2 2

def xi_279 (s : Site K) : K :=
  s._data_pdfs s.ctr_0 s.ctr_1 s.ctr_2 12

def xi_280 (s : Site K) : K :=
  s._data_pdfs s.ctr_0 s.ctr_1 s.ctr_2 16

def random_7 (s : Site K) : K × K :=
  s.philox_double2 s.time_step (u32 (s.block_offset_0 + s.ctr_0)) (u32 (s.block_offset_1 + s.ctr_1)) (u32 (s.block_offset_2 + s.ctr_2)) 7 s.seed

def random_7_0 (s : Site K) : K :=
  (random_7 s).1

def random_7_1 (s : Site K) : K :=
  (random_7 s).2

def random_6 (s : Site K) : K × K :=
  s.philox_double2 s.time_step (u32 (s.block_offset_0 + s.ctr_0)) (u32 (s.block_offset_1 + s.ctr_1)) (u32 (s.block_offset_2 + s.ctr_2)) 6 s.seed

def random_6_0 (s : Site K) : K :=
  (random_6 s).1

def random_6_1 (s : Site K) : K :=
  (random_6 s).2

def random_5 (s : Site K) : K × K :=
  s.philox_double2 s.time_step (u32 (s.block_offset_0 + s.ctr_0)) (u32 (s.block_offset_1 + s.ctr_1)) (u32 (s.block_offset_2 + s.ctr_2)) 5 s.seed

def random_5_0 (s : Site K) : K :=
  (random_5 s).1

def random_5_1 (s : Site K) : K :=
  (random_5 s).2

def random_4 (s : Site K) : K × K :=
  s.philox_double2 s.time_step (u32 (s.block_offset_0 + s.ctr_0)) (u32 (s.block_offset_1 + s.ctr_1)) (u32 (s.block_offset_2 + s.ctr_2)) 4 s.seed

def random_4_0 (s : Site K) : K :=
  (random_4 s).1

def random_4_1 (s : Site K) : K :=
  (random_4 s).2

def random_3 (s : Site K) : K × K :=
  s.philox_double2 s.time_step (u32 (s.block_offset_0 + s.ctr_0)) (u32 (s.block_offset_1 + s.ctr_1)) (u32 (s.block_offset_2 + s.ctr_2)) 3 s.seed

def random_3_0 (s : Site K) : K :=
  (random_3 s).1

def random_3_1 (s : Site K) : K :=
  (random_3 s).2

def random_2 (s : Site K) : K × K :=
  s.philox_double2 s.time_step (u32 (s.block_offset_0 + s.ctr_0)) (u32 (s.block_offset_1 + s.ctr_1)) (u32 (s.block_offset_2 + s.ctr_2)) 2 s.seed

def random_2_0 (s : Site K) : K :=
  (random_2 s).1

def random_2_1 (s : Site K) : K :=
  (random_2 s).2

def random_1 (s : Site K) : K × K :=
  s.philox_double2 s.time_step (u32 (s.block_offset_0 + s.ctr_0)) (u32 (s.block_offset_1 + s.ctr_1)) (u32 (s.block_offset_2 + s.ctr_2)) 1 s.seed

def random_1_0 (s : Site K) : K :=
  (random_1 s).1

def random_1_1 (s : Site K) : K :=
  (random_1 s).2

def random_0 (s : Site K) : K × K :=
  s.philox_double2 s.time_step (u32 (s.block_offset_0 + s.ctr_0)) (u32 (s.block_offset_1 + s.ctr_1)) (u32 (s.block_offset_2 + s.ctr_2)) 0 s.seed

def random_0_0 (s : Site K) : K :=
  (random_0 s).1

def random_0_1 (s : Site K) : K :=
  (random_0 s).2

def xi_0 (s : Site K) : K :=
  xi_259 s + xi_265 s

def xi_1 (s : Site K) : K :=
  xi_262 s + xi_272 s

def xi_2 (s : Site K) : K :=
  xi_0 s + xi_1 s + xi_266 s

def xi_3 (s : Site K) : K :=
  xi_264 s + xi_270 s

def xi_4 (s : Site K) : K :=
  xi_260 s + xi_3 s

def xi_5 (s : Site K) : K :=
  xi_269 s + xi_4 s

def xi_6 (s : Site K) : K :=
  xi_261 s + xi_279 s

def xi_7 (s : Site K) : K :=
  xi_275 s + xi_6 s

def xi_8 (s : Site K) : K :=
  xi_268 s + xi_274 s

def xi_9 (s : Site K) : K :=
  xi_278 s + xi_280 s

def xi_10 (s : Site K) : K :=
  xi_267 s + xi_276 s

def xi_12 (s : Site K) : K :=
  -xi_276 s

def xi_13 (s : Site K) : K :=
  -xi_268 s

def xi_14 (s : Site K) : K :=
  xi_12 s + xi_13 s

def xi_15 (s : Site K) : K :=
  -xi_275 s

def xi_16 (s : Site K) : K :=
  -xi_269 s

def xi_17 (s : Site K) : K :=
  -xi_274 s

def xi_18 (s : Site K) : K :=
  xi_16 s + xi_17 s

def xi_19 (s : Site K) : K :=
  xi_15 s + xi_18 s

def xi_20 (s : Site K) : K :=
  -xi_265 s

def xi_21 (s : Site K) : K :=
  xi_20 s + xi_259 s

def xi_22 (s : Site K) : K :=
  -xi_279 s

def xi_23 (s : Site K) : K :=
  -xi_278 s

def xi_24 (s : Site K) : K :=
  -xi_280 s

def xi_25 (s : Site K) : K :=
  xi_22 s + xi_23 s + xi_24 s

def xi_26 (s : Site K) : K :=
  -xi_262 s

def xi_27 (s : Site K) : K :=
  xi_12 s + xi_26 s

def xi_28 (s : Site K) : K :=
  -xi_270 s

def xi_29 (s : Site K) : K :=
  -xi_267 s

def xi_30 (s : Site K) : K :=
  xi_24 s + xi_264 s + xi_28 s + xi_29 s

def xi_31 (s : Site K) : K :=
  xi_275 s + xi_276 s

def xi_32 (s : Site K) : K :=
  xi_269 s + xi_31 s + xi_8 s

def xi_33 (s : Site K) : K :=
  xi_16 s + xi_21 s + xi_274 s

def xi_34 (s : Site K) : K :=
  xi_26 s + xi_276 s

def xi_35 (s : Site K) : K :=
  xi_15 s + xi_272 s

def xi_36 (s : Site K) : K :=
  xi_34 s + xi_35 s

def xi_37 (s : Site K) : K :=
  xi_274 s + xi_279 s + xi_9 s

def xi_38 (s : Site K) : K :=
  xi_28 s + xi_280 s

def xi_39 (s : Site K) : K :=
  xi_22 s + xi_264 s + xi_38 s

def xi_57 (s : Site K) : K :=
  xi_271 s * (1 / 6)

def xi_65 (s : Site K) : K :=
  xi_277 s * (1 / 6)

def xi_69 (s : Site K) : K :=
  xi_273 s * (1 / 6)

def xi_72 (s : Site K) : K :=
  xi_271 s * (1 / 2)

def xi_76 (s : Site K) : K :=
  xi_277 s * (1 / 12)

def xi_80 (s : Site K) : K :=
  xi_271 s * (1 / 12)

def xi_90 (s : Site K) : K :=
  xi_273 s * (1 / 12)

def xi_108 (s : Site K) : K :=
  -xi_263 s

def xi_109 (s : Site K) : K :=
  xi_108 s + xi_261 s * 3 + xi_267 s * 3

def xi_110 (s : Site K) : K :=
  s.omega_even * (xi_109 s + xi_260 s * 3 + xi_264 s * -3 + xi_270 s * -3 + xi_278 s * 3 + xi_279 s * -3 + xi_280 s * -3)

def xi_111 (s : Site K) : K :=
  xi_264 s * 2 + xi_270 s * 2 + xi_279 s * 2 + xi_280 s * 2

def xi_112 (s : Site K) : K :=
  xi_111 s + xi_266 s * 5 + xi_268 s * 5

def xi_113 (s : Site K) : K :=
  s.omega_even * (xi_109 s + xi_112 s + xi_260 s * -2 + xi_262 s * -5 + xi_272 s * -5 + xi_275 s * -5 + xi_276 s * -5 + xi_278 s * -2)

def xi_116 (s : Site K) : K :=
  -xi_264 s

def xi_117 (s : Site K) : K :=
  xi_116 s + xi_22 s

def xi_118 (s : Site K) : K :=
  -xi_259 s

def xi_121 (s : Site K) : K :=
  -xi_272 s

def xi_122 (s : Site K) : K :=
  xi_121 s + xi_19 s + xi_27 s

def xi_124 (s : Site K) : K :=
  xi_275 s * 2

def xi_125 (s : Site K) : K :=
  xi_272 s * 2

def xi_126 (s : Site K) : K :=
  xi_262 s * 2 + xi_276 s * 2

def xi_127 (s : Site K) : K :=
  s.omega_even * (xi_108 s + xi_112 s + xi_124 s + xi_125 s + xi_126 s + xi_259 s * -7 + xi_260 s * 5 + xi_261 s * -4 + xi_265 s * -7 + xi_267 s * -4 + xi_269 s * -7 + xi_274 s * -7 + xi_278 s * 5)

def xi_128 (s : Site K) : K :=
  xi_116 s + xi_23 s + xi_260 s + xi_279 s + xi_38 s

def xi_130 (s : Site K) : K :=
  xi_128 s * xi_129 s

def xi_135 (s : Site K) : K :=
  random_5_1 s - (1 / 2)

def xi_140 (s : Site K) : K :=
  xi_269 s * 2

def xi_141 (s : Site K) : K :=
  xi_265 s * 2

def xi_142 (s : Site K) : K :=
  xi_259 s * -2 + xi_274 s * 2

def xi_143 (s : Site K) : K :=
  -xi_140 s + xi_141 s + xi_142 s + xi_25 s + xi_4 s

def xi_145 (s : Site K) : K :=
  xi_143 s * xi_144 s

def xi_146 (s : Site K) : K :=
  random_3_0 s - (1 / 2)

def xi_151 (s : Site K) : K :=
  random_0_1 s - (1 / 2)

def xi_168 (s : Site K) : K :=
  xi_121 s + xi_13 s + xi_266 s + xi_275 s + xi_34 s

def xi_169 (s : Site K) : K :=
  xi_129 s * xi_168 s

def xi_170 (s : Site K) : K :=
  random_4_1 s - (1 / 2)

def xi_172 (s : Site K) : K :=
  xi_14 s + xi_140 s - xi_141 s + xi_142 s + xi_262 s + xi_266 s + xi_35 s

def xi_173 (s : Site K) : K :=
  xi_144 s * xi_172 s

def xi_174 (s : Site K) : K :=
  random_4_0 s - (1 / 2)

def xi_179 (s : Site K) : K :=
  xi_270 s + xi_280 s

def xi_180 (s : Site K) : K :=
  xi_117 s + xi_179 s + xi_261 s + xi_29 s

def xi_181 (s : Site K) : K :=
  xi_129 s * xi_180 s

def xi_184 (s : Site K) : K :=
  random_5_0 s - (1 / 2)

def xi_186 (s : Site K) : K :=
  -xi_124 s - xi_125 s + xi_126 s + xi_30 s + xi_6 s

def xi_187 (s : Site K) : K :=
  xi_144 s * xi_186 s

def xi_188 (s : Site K) : K :=
  random_3_1 s - (1 / 2)

def xi_195 (s : Site K) : K :=
  xi_127 s * (1 / 72)

def xi_216 (s : Site K) : K :=
  xi_113 s * -(1 / 140)

def xi_218 (s : Site K) : K :=
  xi_110 s * (1 / 40)

def xi_223 (s : Site K) : K :=
  xi_186 s * xi_222 s

def xi_225 (s : Site K) : K :=
  xi_180 s * xi_224 s

def xi_234 (s : Site K) : K :=
  xi_143 s * xi_222 s

def xi_235 (s : Site K) : K :=
  xi_128 s * xi_224 s

def xi_243 (s : Site K) : K :=
  xi_113 s * (1 / 56)

def xi_249 (s : Site K) : K :=
  xi_168 s * xi_224 s

def xi_250 (s : Site K) : K :=
  xi_172 s * xi_222 s

def vel0Term (s : Site K) : K :=
  xi_2 s

def vel1Term (s : Site K) : K :=
  xi_5 s

def vel2Term (s : Site K) : K :=
  xi_7 s

def rho (s : Site K) : K :=
  vel0Term s + vel1Term s + vel2Term s + xi_10 s + xi_263 s + xi_8 s + xi_9 s

def xi_11 (s : Site K) : K :=
  1 / (rho s)

def xi_101 (s : Site K) : K :=
  s.kT * rho s

def xi_102 (s : Site K) : K :=
  s.sqrt (xi_101 s * (-((-s.omega_even + 1) * (-s.omega_even + 1)) + 1))

def xi_103 (s : Site K) : K :=
  xi_102 s * (random_6_0 s - (1 / 2)) * (37416573867739413 / 10000000000000000)

def xi_104 (s : Site K) : K :=
  xi_102 s * (random_7_0 s - (1 / 2)) * (54772255750516612 / 10000000000000000)

def xi_106 (s : Site K) : K :=
  xi_105 s * s.sqrt (xi_101 s * (-((xi_40 s + 1) * (xi_40 s + 1)) + 1)) * (random_2_1 s - (1 / 2))

def xi_107 (s : Site K) : K :=
  xi_102 s * (random_6_1 s - (1 / 2)) * (83666002653407556 / 10000000000000000)

def xi_136 (s : Site K) : K :=
  s.sqrt (xi_101 s * (-((-s.omega_odd + 1) * (-s.omega_odd + 1)) + 1))

def xi_137 (s : Site K) : K :=
  xi_136 s * (14142135623730951 / 10000000000000000)

def xi_138 (s : Site K) : K :=
  xi_137 s * (1 / 2)

def xi_139 (s : Site K) : K :=
  xi_135 s * xi_138 s

def xi_147 (s : Site K) : K :=
  xi_105 s * xi_136 s

def xi_148 (s : Site K) : K :=
  xi_147 s * (1 / 6)

def xi_149 (s : Site K) : K :=
  xi_146 s * xi_148 s

def xi_150 (s : Site K) : K :=
  -xi_145 s - xi_149 s

def xi_152 (s : Site K) : K :=
  s.sqrt (xi_101 s * (-((xi_51 s + 1) * (xi_51 s + 1)) + 1))

def xi_153 (s : Site K) : K :=
  xi_152 s * (1 / 2)

def xi_154 (s : Site K) : K :=
  xi_151 s * xi_153 s

def xi_158 (s : Site K) : K :=
  xi_103 s * -(5 / 42) + xi_127 s * -(5 / 252)

def xi_160 (s : Site K) : K :=
  xi_152 s * (random_0_0 s - (1 / 2)) * (17320508075688772 / 10000000000000000)

def xi_164 (s : Site K) : K :=
  xi_145 s + xi_149 s

def xi_171 (s : Site K) : K :=
  xi_138 s * xi_170 s

def xi_175 (s : Site K) : K :=
  xi_148 s * xi_174 s

def xi_176 (s : Site K) : K :=
  xi_173 s + xi_175 s

def xi_178 (s : Site K) : K :=
  -xi_173 s - xi_175 s

def xi_185 (s : Site K) : K :=
  xi_138 s * xi_184 s

def xi_189 (s : Site K) : K :=
  xi_148 s * xi_188 s

def xi_190 (s : Site K) : K :=
  -xi_187 s - xi_189 s

def xi_192 (s : Site K) : K :=
  xi_187 s + xi_189 s

def xi_193 (s : Site K) : K :=
  xi_151 s * xi_152 s * (1 / 4)

def xi_196 (s : Site K) : K :=
  xi_103 s * (1 / 12)

def xi_206 (s : Site K) : K :=
  xi_153 s * (random_1_0 s - (1 / 2))

def xi_215 (s : Site K) : K :=
  xi_153 s * (random_2_0 s - (1 / 2))

def xi_219 (s : Site K) : K :=
  xi_107 s * -(1 / 70)

def xi_220 (s : Site K) : K :=
  xi_104 s * (1 / 20)

def xi_226 (s : Site K) : K :=
  xi_147 s * (1 / 12)

def xi_227 (s : Site K) : K :=
  xi_188 s * xi_226 s

def xi_228 (s : Site K) : K :=
  xi_137 s * (1 / 4)

def xi_229 (s : Site K) : K :=
  xi_184 s * xi_228 s

def xi_231 (s : Site K) : K :=
  xi_103 s * -(1 / 42) + xi_127 s * -(1 / 252)

def xi_236 (s : Site K) : K :=
  xi_146 s * xi_226 s

def xi_237 (s : Site K) : K :=
  xi_135 s * xi_228 s

def xi_241 (s : Site K) : K :=
  -xi_193 s

def xi_244 (s : Site K) : K :=
  xi_107 s * (1 / 28)

def xi_246 (s : Site K) : K :=
  xi_153 s * (random_1_1 s - (1 / 2))

def xi_251 (s : Site K) : K :=
  xi_170 s * xi_228 s

def xi_252 (s : Site K) : K :=
  xi_174 s * xi_226 s

def u_0 (s : Site K) : K :=
  xi_11 s * (vel0Term s + xi_14 s + xi_19 s)

def xi_41 (s : Site K) : K :=
  u_0 s * xi_277 s

def xi_42 (s : Site K) : K :=
  xi_41 s * (1 / 3)

def xi_48 (s : Site K) : K :=
  -xi_42 s

def xi_114 (s : Site K) : K :=
  rho s * (u_0 s * u_0 s)

def xi_165 (s : Site K) : K :=
  rho s * u_0 s

def xi_166 (s : Site K) : K :=
  -vel0Term s + xi_165 s + xi_32 s

def xi_167 (s : Site K) : K :=
  xi_133 s * xi_166 s

def xi_202 (s : Site K) : K :=
  xi_166 s * xi_197 s

def u_1 (s : Site K) : K :=
  xi_11 s * (vel1Term s + xi_17 s + xi_21 s + xi_25 s)

def xi_43 (s : Site K) : K :=
  u_1 s * xi_271 s

def xi_44 (s : Site K) : K :=
  xi_43 s * (1 / 3)

def xi_49 (s : Site K) : K :=
  -xi_44 s

def xi_71 (s : Site K) : K :=
  u_1 s * (1 / 2)

def xi_74 (s : Site K) : K :=
  xi_73 s * (u_0 s * xi_72 s + xi_277 s * xi_71 s)

def xi_75 (s : Site K) : K :=
  -xi_74 s

def xi_119 (s : Site K) : K :=
  rho s * (u_1 s * u_1 s)

def xi_120 (s : Site K) : K :=
  xi_118 s + xi_119 s + xi_20 s

def xi_131 (s : Site K) : K :=
  rho s * u_1 s

def xi_132 (s : Site K) : K :=
  -vel1Term s + xi_118 s + xi_131 s + xi_265 s + xi_37 s

def xi_134 (s : Site K) : K :=
  xi_132 s * xi_133 s

def xi_198 (s : Site K) : K :=
  xi_132 s * xi_197 s

def u_2 (s : Site K) : K :=
  xi_11 s * (vel2Term s + xi_27 s + xi_272 s + xi_30 s)

def xi_45 (s : Site K) : K :=
  u_2 s * xi_273 s

def xi_46 (s : Site K) : K :=
  xi_45 s * (1 / 3)

def xi_47 (s : Site K) : K :=
  (xi_40 s + 2) * (xi_42 s + xi_44 s + xi_46 s)

def xi_50 (s : Site K) : K :=
  xi_45 s * (2 / 3) + xi_48 s + xi_49 s

def xi_54 (s : Site K) : K :=
  -xi_46 s

def xi_55 (s : Site K) : K :=
  xi_43 s * (2 / 3) + xi_48 s + xi_54 s

def xi_56 (s : Site K) : K :=
  xi_41 s * (2 / 3) + xi_49 s + xi_54 s

def xi_59 (s : Site K) : K :=
  xi_50 s * xi_58 s

def xi_60 (s : Site K) : K :=
  -xi_59 s

def xi_61 (s : Site K) : K :=
  xi_56 s * xi_58 s

def xi_62 (s : Site K) : K :=
  -xi_61 s

def xi_64 (s : Site K) : K :=
  xi_55 s * xi_63 s + xi_60 s + xi_62 s

def xi_66 (s : Site K) : K :=
  xi_55 s * xi_58 s

def xi_67 (s : Site K) : K :=
  -xi_66 s

def xi_68 (s : Site K) : K :=
  xi_56 s * xi_63 s + xi_60 s + xi_67 s

def xi_70 (s : Site K) : K :=
  xi_50 s * xi_63 s + xi_62 s + xi_67 s

def xi_77 (s : Site K) : K :=
  xi_61 s - xi_76 s

def xi_79 (s : Site K) : K :=
  -xi_50 s * xi_78 s

def xi_81 (s : Site K) : K :=
  xi_47 s * (1 / 8)

def xi_82 (s : Site K) : K :=
  xi_66 s + xi_81 s

def xi_83 (s : Site K) : K :=
  xi_80 s + xi_82 s

def xi_84 (s : Site K) : K :=
  xi_79 s + xi_83 s

def xi_85 (s : Site K) : K :=
  xi_61 s + xi_76 s

def xi_86 (s : Site K) : K :=
  -xi_80 s + xi_82 s

def xi_87 (s : Site K) : K :=
  xi_79 s + xi_86 s

def xi_88 (s : Site K) : K :=
  xi_73 s * (u_2 s * xi_72 s + xi_273 s * xi_71 s)

def xi_89 (s : Site K) : K :=
  -xi_56 s * xi_78 s

def xi_91 (s : Site K) : K :=
  xi_59 s + xi_90 s

def xi_92 (s : Site K) : K :=
  xi_89 s + xi_91 s

def xi_93 (s : Site K) : K :=
  -xi_88 s

def xi_94 (s : Site K) : K :=
  xi_73 s * (u_0 s * xi_273 s * (1 / 2) + u_2 s * xi_277 s * (1 / 2))

def xi_95 (s : Site K) : K :=
  -xi_94 s

def xi_96 (s : Site K) : K :=
  -xi_55 s * xi_78 s

def xi_97 (s : Site K) : K :=
  xi_81 s + xi_91 s + xi_96 s

def xi_98 (s : Site K) : K :=
  xi_59 s - xi_90 s

def xi_99 (s : Site K) : K :=
  xi_89 s + xi_98 s

def xi_100 (s : Site K) : K :=
  xi_81 s + xi_96 s + xi_98 s

def xi_115 (s : Site K) : K :=
  rho s * (u_2 s * u_2 s)

def xi_123 (s : Site K) : K :=
  s.omega_bulk * (xi_114 s + xi_115 s + xi_117 s + xi_120 s + xi_122 s + xi_24 s + xi_263 s + xi_28 s)

def xi_155 (s : Site K) : K :=
  -xi_115 s + xi_261 s + xi_267 s

def xi_156 (s : Site K) : K :=
  s.omega_shear * (xi_1 s + xi_120 s + xi_155 s + xi_18 s + xi_23 s - xi_260 s + xi_31 s)

def xi_157 (s : Site K) : K :=
  xi_156 s * (1 / 8)

def xi_159 (s : Site K) : K :=
  s.omega_shear * (xi_111 s + xi_114 s * 2 + xi_118 s - xi_119 s + xi_122 s + xi_155 s + xi_20 s + xi_260 s + xi_266 s * -2 + xi_268 s * -2 + xi_278 s)

def xi_161 (s : Site K) : K :=
  xi_159 s * -(1 / 24) + xi_160 s * -(1 / 6)

def xi_162 (s : Site K) : K :=
  xi_104 s * -(1 / 10) + xi_110 s * -(1 / 20) + xi_161 s

def xi_163 (s : Site K) : K :=
  xi_107 s * (1 / 35) + xi_113 s * (1 / 70) + xi_154 s + xi_157 s + xi_158 s + xi_162 s

def xi_177 (s : Site K) : K :=
  xi_107 s * -(1 / 14) + xi_113 s * -(1 / 28) + xi_158 s + xi_159 s * (1 / 12) + xi_160 s * (1 / 3)

def xi_182 (s : Site K) : K :=
  rho s * u_2 s - vel2Term s + xi_10 s + xi_116 s + xi_121 s + xi_179 s + xi_262 s

def xi_183 (s : Site K) : K :=
  xi_133 s * xi_182 s

def xi_191 (s : Site K) : K :=
  xi_103 s * (2 / 21) + xi_107 s * -(3 / 70) + xi_113 s * -(3 / 140) + xi_127 s * (1 / 63) - xi_154 s - xi_157 s + xi_162 s

def xi_194 (s : Site K) : K :=
  xi_156 s * (1 / 16)

def xi_199 (s : Site K) : K :=
  xi_106 s * (1 / 12) + xi_123 s * (1 / 24)

def xi_200 (s : Site K) : K :=
  xi_198 s + xi_199 s

def xi_201 (s : Site K) : K :=
  xi_164 s + xi_193 s + xi_194 s + xi_195 s + xi_196 s + xi_200 s

def xi_203 (s : Site K) : K :=
  xi_159 s * (1 / 48) + xi_160 s * (1 / 12)

def xi_204 (s : Site K) : K :=
  -xi_202 s + xi_203 s

def xi_205 (s : Site K) : K :=
  xi_178 s + xi_204 s

def xi_211 (s : Site K) : K :=
  xi_202 s + xi_203 s

def xi_212 (s : Site K) : K :=
  xi_176 s + xi_211 s

def xi_213 (s : Site K) : K :=
  -xi_198 s + xi_199 s

def xi_214 (s : Site K) : K :=
  xi_150 s + xi_193 s + xi_194 s + xi_195 s + xi_196 s + xi_213 s

def xi_230 (s : Site K) : K :=
  xi_182 s * xi_197 s

def xi_232 (s : Site K) : K :=
  xi_230 s + xi_231 s

def xi_233 (s : Site K) : K :=
  -xi_223 s + xi_225 s - xi_227 s + xi_229 s + xi_232 s

def xi_238 (s : Site K) : K :=
  xi_200 s - xi_234 s + xi_235 s - xi_236 s + xi_237 s

def xi_239 (s : Site K) : K :=
  xi_213 s + xi_234 s - xi_235 s + xi_236 s - xi_237 s

def xi_242 (s : Site K) : K :=
  -xi_194 s

def xi_245 (s : Site K) : K :=
  xi_192 s + xi_199 s + xi_232 s + xi_241 s + xi_242 s + xi_243 s + xi_244 s

def xi_253 (s : Site K) : K :=
  xi_204 s - xi_249 s + xi_250 s - xi_251 s + xi_252 s

def xi_255 (s : Site K) : K :=
  xi_211 s + xi_249 s - xi_250 s + xi_251 s - xi_252 s

def xi_256 (s : Site K) : K :=
  -xi_230 s + xi_231 s

def xi_257 (s : Site K) : K :=
  xi_223 s - xi_225 s + xi_227 s - xi_229 s + xi_256 s

def xi_258 (s : Site K) : K :=
  xi_190 s + xi_199 s + xi_241 s + xi_242 s + xi_243 s + xi_244 s + xi_256 s

def p_0 (s : Site K) : K :=
  xi_2 s + xi_32 s

def p_1 (s : Site K) : K :=
  xi_33 s

def xi_208 (s : Site K) : K :=
  xi_207 s * (-p_1 s + u_0 s * xi_131 s)

def xi_209 (s : Site K) : K :=
  -xi_206 s - xi_208 s

def xi_210 (s : Site K) : K :=
  xi_206 s + xi_208 s

def p_2 (s : Site K) : K :=
  xi_36 s

def xi_247 (s : Site K) : K :=
  xi_207 s * (-p_2 s + u_2 s * xi_165 s)

def xi_248 (s : Site K) : K :=
  -xi_246 s - xi_247 s

def xi_254 (s : Site K) : K :=
  xi_246 s + xi_247 s

def p_3 (s : Site K) : K :=
  xi_33 s

def p_4 (s : Site K) : K :=
  xi_0 s + xi_37 s + xi_5 s

def p_5 (s : Site K) : K :=
  xi_39 s

def xi_217 (s : Site K) : K :=
  xi_207 s * (-p_5 s + u_2 s * xi_131 s)

def xi_221 (s : Site K) : K :=
  xi_161 s + xi_215 s + xi_216 s + xi_217 s + xi_218 s + xi_219 s + xi_220 s

def xi_240 (s : Site K) : K :=
  xi_161 s - xi_215 s + xi_216 s - xi_217 s + xi_218 s + xi_219 s + xi_220 s

def p_6 (s : Site K) : K :=
  xi_36 s

def p_7 (s : Site K) : K :=
  xi_39 s

def p_8 (s : Site K) : K :=
  xi_1 s + xi_10 s + xi_280 s + xi_3 s + xi_7 s

def forceTerm_0 (s : Site K) : K :=
  xi_47 s * -(3 / 2) - xi_50 s * xi_53 s - xi_53 s * xi_55 s - xi_53 s * xi_56 s

def forceTerm_1 (s : Site K) : K :=
  xi_57 s + xi_64 s

def forceTerm_2 (s : Site K) : K :=
  -xi_57 s + xi_64 s

def forceTerm_3 (s : Site K) : K :=
  -xi_65 s + xi_68 s

def forceTerm_4 (s : Site K) : K :=
  xi_65 s + xi_68 s

def forceTerm_5 (s : Site K) : K :=
  xi_69 s + xi_70 s

def forceTerm_6 (s : Site K) : K :=
  -xi_69 s + xi_70 s

def forceTerm_7 (s : Site K) : K :=
  xi_75 s + xi_77 s + xi_84 s

def forceTerm_8 (s : Site K) : K :=
  xi_74 s + xi_84 s + xi_85 s

def forceTerm_9 (s : Site K) : K :=
  xi_74 s + xi_77 s + xi_87 s

def forceTerm_10 (s : Site K) : K :=
  xi_75 s + xi_85 s + xi_87 s

def forceTerm_11 (s : Site K) : K :=
  xi_83 s + xi_88 s + xi_92 s

def forceTerm_12 (s : Site K) : K :=
  xi_86 s + xi_92 s + xi_93 s

def forceTerm_13 (s : Site K) : K :=
  xi_77 s + xi_95 s + xi_97 s

def forceTerm_14 (s : Site K) : K :=
  xi_85 s + xi_94 s + xi_97 s

def forceTerm_15 (s : Site K) : K :=
  xi_83 s + xi_93 s + xi_99 s

def forceTerm_16 (s : Site K) : K :=
  xi_86 s + xi_88 s + xi_99 s

def forceTerm_17 (s : Site K) : K :=
  xi_100 s + xi_77 s + xi_94 s

def forceTerm_18 (s : Site K) : K :=
  xi_100 s + xi_85 s + xi_95 s

def store_0 (s : Site K) : K :=
  forceTerm_0 s + xi_103 s * (1 / 7) + xi_104 s * (1 / 5) - xi_106 s + xi_107 s * (3 / 35) + xi_110 s * (1 / 10) + xi_113 s * (3 / 70) + xi_123 s * -(1 / 2) + xi_127 s * (1 / 42) + xi_263 s

def store_1 (s : Site K) : K :=
  forceTerm_1 s - xi_130 s + xi_134 s - xi_139 s + xi_150 s + xi_163 s + xi_260 s

def store_2 (s : Site K) : K :=
  forceTerm_2 s + xi_130 s - xi_134 s + xi_139 s + xi_163 s + xi_164 s + xi_278 s

def store_3 (s : Site K) : K :=
  forceTerm_3 s - xi_167 s + xi_169 s + xi_171 s + xi_176 s + xi_177 s + xi_268 s

def store_4 (s : Site K) : K :=
  forceTerm_4 s + xi_167 s - xi_169 s - xi_171 s + xi_177 s + xi_178 s + xi_266 s

def store_5 (s : Site K) : K :=
  forceTerm_5 s - xi_181 s + xi_183 s - xi_185 s + xi_190 s + xi_191 s + xi_261 s

def store_6 (s : Site K) : K :=
  forceTerm_6 s + xi_181 s - xi_183 s + xi_185 s + xi_191 s + xi_192 s + xi_267 s

def store_7 (s : Site K) : K :=
  forceTerm_7 s + xi_201 s + xi_205 s + xi_209 s + xi_269 s

def store_8 (s : Site K) : K :=
  forceTerm_8 s + xi_201 s + xi_210 s + xi_212 s + xi_259 s

def store_9 (s : Site K) : K :=
  forceTerm_9 s + xi_205 s + xi_210 s + xi_214 s + xi_274 s

def store_10 (s : Site K) : K :=
  forceTerm_10 s + xi_209 s + xi_212 s + xi_214 s + xi_265 s

def store_11 (s : Site K) : K :=
  forceTerm_11 s + xi_221 s + xi_233 s + xi_238 s + xi_264 s

def store_12 (s : Site K) : K :=
  forceTerm_12 s + xi_233 s + xi_239 s + xi_240 s + xi_279 s

def store_13 (s : Site K) : K :=
  forceTerm_13 s + xi_245 s + xi_248 s + xi_253 s + xi_275 s

def store_14 (s : Site K) : K :=
  forceTerm_14 s + xi_245 s + xi_254 s + xi_255 s + xi_272 s

def store_15 (s : Site K) : K :=
  forceTerm_15 s + xi_238 s + xi_240 s + xi_257 s + xi_270 s

def store_16 (s : Site K) : K :=
  forceTerm_16 s + xi_221 s + xi_239 s + xi_257 s + xi_280 s

def store_17 (s : Site K) : K :=
  forceTerm_17 s + xi_253 s + xi_254 s + xi_258 s + xi_276 s

def store_18 (s : Site K) : K :=
  forceTerm_18 s + xi_248 s + xi_255 s + xi_258 s + xi_262 s

/-- The value stored to each of the nineteen slots of the current cell. -/
def values (s : Site K) : Fin 19 → K :=
  ![store_0 s, store_1 s, store_2 s, store_3 s, store_4 s, store_5 s, store_6 s,
    store_7 s, store_8 s, store_9 s, store_10 s, store_11 s, store_12 s,
    store_13 s, store_14 s, store_15 s, store_16 s, store_17 s, store_18 s]

end kernel_collide

/-! ### Loop body of the scalar `kernel_streamCollide` (lines 55-497) -/

namespace kernel_streamCollide

def xi_40 (s : Site K) : K :=
  -s.omega_bulk

def xi_51 (s : Site K) : K :=
  -s.omega_shear

def xi_52 (s : Site K) : K :=
  xi_51 s + 2

def xi_53 (s : Site K) : K :=
  xi_52 s * (1 / 2)

def xi_58 (s : Site K) : K :=
  xi_52 s * (1 / 12)

def xi_63 (s : Site K) : K :=
  xi_52 s * (1 / 6)

def xi_73 (s : Site K) : K :=
  xi_52 s * (1 / 4)

def xi_78 (s : Site K) : K :=
  xi_52 s * (1 / 24)

def xi_105 (s : Site K) : K :=
  (24494897427831779 / 10000000000000000)

def xi_129 (s : Site K) : K :=
  s.omega_odd * (1 / 4)

def xi_144 (s : Site K) : K :=
  s.omega_odd * (1 / 12)

def xi_207 (s : Site K) : K :=
  s.omega_shear * (1 / 4)

def xi_222 (s : Site K) : K :=
  s.omega_odd * (1 / 24)

def xi_224 (s : Site K) : K :=
  s.omega_odd * (1 / 8)

def rr_0 (s : Site K) : K :=
  0

def xi_133 (s : Site K) : K :=
  rr_0 s * (1 / 6)

def xi_197 (s : Site K) : K :=
  rr_0 s * (1 / 12)

def random_7 (s : Site K) : K × K :=
  s.philox_double2 s.time_step (u32 (s.block_offset_0 + s.ctr_0)) (u32 (s.block_offset_1 + s.ctr_1)) (u32 (s.block_offset_2 + s.ctr_2)) 7 s.seed

def random_7_0 (s : Site K) : K :=
  (random_7 s).1

def random_7_1 (s : Site K) : K :=
  (random_7 s).2

def random_6 (s : Site K) : K × K :=
  s.philox_double2 s.time_step (u32 (s.block_offset_0 + s.ctr_0)) (u32 (s.block_offset_1 + s.ctr_1)) (u32 (s.block_offset_2 + s.ctr_2)) 6 s.seed

def random_6_0 (s : Site K) : K :=
  (random_6 s).1

def random_6_1 (s : Site K) : K :=
  (random_6 s).2

def random_5 (s : Site K) : K × K :=
  s.philox_double2 s.time_step (u32 (s.block_offset_0 + s.ctr_0)) (u32 (s.block_offset_1 + s.ctr_1)) (u32 (s.block_offset_2 + s.ctr_2)) 5 s.seed

def random_5_0 (s : Site K) : K :=
  (random_5 s).1

def random_5_1 (s : Site K) : K :=
  (random_5 s).2

def random_4 (s : Site K) : K × K :=
  s.philox_double2 s.time_step (u32 (s.block_offset_0 + s.ctr_0)) (u32 (s.block_offset_1 + s.ctr_1)) (u32 (s.block_offset_2 + s.ctr_2)) 4 s.seed

def random_4_0 (s : Site K) : K :=
  (random_4 s).1

def random_4_1 (s : Site K) : K :=
  (random_4 s).2

def random_3 (s : Site K) : K × K :=
  s.philox_double2 s.time_step (u32 (s.block_offset_0 + s.ctr_0)) (u32 (s.block_offset_1 + s.ctr_1)) (u32 (s.block_offset_2 + s.ctr_2)) 3 s.seed

def random_3_0 (s : Site K) : K :=
  (random_3 s).1

def random_3_1 (s : Site K) : K :=
  (random_3 s).2

def random_2 (s : Site K) : K × K :=
  s.philox_double2 s.time_step (u32 (s.block_offset_0 + s.ctr_0)) (u32 (s.block_offset_1 + s.ctr_1)) (u32 (s.block_offset_2 + s.ctr_2)) 2 s.seed

def random_2_0 (s : Site K) : K :=
  (random_2 s).1

def random_2_1 (s : Site K) : K :=
  (random_2 s).2

def random_1 (s : Site K) : K × K :=
  s.philox_double2 s.time_step (u32 (s.block_offset_0 + s.ctr_0)) (u32 (s.block_offset_1 + s.ctr_1)) (u32 (s.block_offset_2 + s.ctr_2)) 1 s.seed

def random_1_0 (s : Site K) : K :=
  (random_1 s).1

def random_1_1 (s : Site K) : K :=
  (random_1 s).2

def random_0 (s : Site K) : K × K :=
  s.philox_double2 s.time_step (u32 (s.block_offset_0 + s.ctr_0)) (u32 (s.block_offset_1 + s.ctr_1)) (u32 (s.block_offset_2 + s.ctr_2)) 0 s.seed

def random_0_0 (s : Site K) : K :=
  (random_0 s).1

def random_0_1 (s : Site K) : K :=
  (random_0 s).2

def xi_0 (s : Site K) : K :=
  s._data_pdfs (s.ctr_0 - 1) (s.ctr_1 + 1) s.ctr_2 10 + s._data_pdfs (s.ctr_0 - 1) (s.ctr_1 - 1) s.ctr_2 8

def xi_1 (s : Site K) : K :=
  s._data_pdfs (s.ctr_0 - 1) s.ctr_1 (s.ctr_2 + 1) 18 + s._data_pdfs (s.ctr_0 - 1) s.ctr_1 (s.ctr_2 - 1) 14

def xi_2 (s : Site K) : K :=
  xi_0 s + xi_1 s + s._data_pdfs (s.ctr_0 - 1) s.ctr_1 s.ctr_2 4

def xi_3 (s : Site K) : K :=
  s._data_pdfs s.ctr_0 (s.ctr_1 - 1) (s.ctr_2 + 1) 15 + s._data_pdfs s.ctr_0 (s.ctr_1 - 1) (s.ctr_2 - 1) 11

def xi_4 (s : Site K) : K :=
  xi_3 s + s._data_pdfs s.ctr_0 (s.ctr_1 - 1) s.ctr_2 1

def xi_5 (s : Site K) : K :=
  xi_4 s + s._data_pdfs (s.ctr_0 + 1) (s.ctr_1 - 1) s.ctr_2 7

def xi_6 (s : Site K) : K :=
  s._data_pdfs s.ctr_0 (s.ctr_1 + 1) (s.ctr_2 - 1) 12 + s._data_pdfs s.ctr_0 s.ctr_1 (s.ctr_2 - 1) 5

def xi_7 (s : Site K) : K :=
  xi_6 s + s._data_pdfs (s.ctr_0 + 1) s.ctr_1 (s.ctr_2 - 1) 13

def xi_8 (s : Site K) : K :=
  s._data_pdfs (s.ctr_0 + 1) s.ctr_1 s.ctr_2 3 + s._data_pdfs (s.ctr_0 + 1) (s.ctr_1 + 1) s.ctr_2 9

def xi_9 (s : Site K) : K :=
  s._data_pdfs s.ctr_0 (s.ctr_1 + 1) s.ctr_2 2 + s._data_pdfs s.ctr_0 (s.ctr_1 + 1) (s.ctr_2 + 1) 16

def xi_10 (s : Site K) : K :=
  s._data_pdfs (s.ctr_0 + 1) s.ctr_1 (s.ctr_2 + 1) 17 + s._data_pdfs s.ctr_0 s.ctr_1 (s.ctr_2 + 1) 6

def xi_12 (s : Site K) : K :=
  -s._data_pdfs (s.ctr_0 + 1) s.ctr_1 (s.ctr_2 + 1) 17

def xi_13 (s : Site K) : K :=
  -s._data_pdfs (s.ctr_0 + 1) s.ctr_1 s.ctr_2 3

def xi_14 (s : Site K) : K :=
  xi_12 s + xi_13 s

def xi_15 (s : Site K) : K :=
  -s._data_pdfs (s.ctr_0 + 1) s.ctr_1 (s.ctr_2 - 1) 13

def xi_16 (s : Site K) : K :=
  -s._data_pdfs (s.ctr_0 + 1) (s.ctr_1 - 1) s.ctr_2 7

def xi_17 (s : Site K) : K :=
  -s._data_pdfs (s.ctr_0 + 1) (s.ctr_1 + 1) s.ctr_2 9

def xi_18 (s : Site K) : K :=
  xi_16 s + xi_17 s

def xi_19 (s : Site K) : K :=
  xi_15 s + xi_18 s

def xi_20 (s : Site K) : K :=
  -s._data_pdfs (s.ctr_0 - 1) (s.ctr_1 + 1) s.ctr_2 10

def xi_21 (s : Site K) : K :=
  xi_20 s + s._data_pdfs (s.ctr_0 - 1) (s.ctr_1 - 1) s.ctr_2 8

def xi_22 (s : Site K) : K :=
  -s._data_pdfs s.ctr_0 (s.ctr_1 + 1) (s.ctr_2 - 1) 12

def xi_23 (s : Site K) : K :=
  -s._data_pdfs s.ctr_0 (s.ctr_1 + 1) s.ctr_2 2

def xi_24 (s : Site K) : K :=
  -s._data_pdfs s.ctr_0 (s.ctr_1 + 1) (s.ctr_2 + 1) 16

def xi_25 (s : Site K) : K :=
  xi_22 s + xi_23 s + xi_24 s

def xi_26 (s : Site K) : K :=
  -s._data_pdfs (s.ctr_0 - 1) s.ctr_1 (s.ctr_2 + 1) 18

def xi_27 (s : Site K) : K :=
  xi_12 s + xi_26 s

def xi_28 (s : Site K) : K :=
  -s._data_pdfs s.ctr_0 (s.ctr_1 - 1) (s.ctr_2 + 1) 15

def xi_29 (s : Site K) : K :=
  -s._data_pdfs s.ctr_0 s.ctr_1 (s.ctr_2 + 1) 6

def xi_30 (s : Site K) : K :=
  xi_24 s + xi_28 s + xi_29 s + s._data_pdfs s.ctr_0 (s.ctr_1 - 1) (s.ctr_2 - 1) 11

def xi_31 (s : Site K) : K :=
  s._data_pdfs (s.ctr_0 + 1) s.ctr_1 (s.ctr_2 + 1) 17 + s._data_pdfs (s.ctr_0 + 1) s.ctr_1 (s.ctr_2 - 1) 13

def xi_32 (s : Site K) : K :=
  xi_31 s + xi_8 s + s._data_pdfs (s.ctr_0 + 1) (s.ctr_1 - 1) s.ctr_2 7

def xi_33 (s : Site K) : K :=
  xi_16 s + xi_21 s + s._data_pdfs (s.ctr_0 + 1) (s.ctr_1 + 1) s.ctr_2 9

def xi_34 (s : Site K) : K :=
  xi_26 s + s._data_pdfs (s.ctr_0 + 1) s.ctr_1 (s.ctr_2 + 1) 17

def xi_35 (s : Site K) : K :=
  xi_15 s + s._data_pdfs (s.ctr_0 - 1) s.ctr_1 (s.ctr_2 - 1) 14

def xi_36 (s : Site K) : K :=
  xi_34 s + xi_35 s

def xi_37 (s : Site K) : K :=
  xi_9 s + s._data_pdfs (s.ctr_0 + 1) (s.ctr_1 + 1) s.ctr_2 9 + s._data_pdfs s.ctr_0 (s.ctr_1 + 1) (s.ctr_2 - 1) 12

def xi_38 (s : Site K) : K :=
  xi_28 s + s._data_pdfs s.ctr_0 (s.ctr_1 + 1) (s.ctr_2 + 1) 16

def xi_39 (s : Site K) : K :=
  xi_22 s + xi_38 s + s._data_pdfs s.ctr_0 (s.ctr_1 - 1) (s.ctr_2 - 1) 11

def xi_57 (s : Site K) : K :=
  (1 / 6) * s._data_force s.ctr_0 s.ctr_1 s.ctr_2 1

def xi_65 (s : Site K) : K :=
  (1 / 6) * s._data_force s.ctr_0 s.ctr_1 s.ctr_2 0

def xi_69 (s : Site K) : K :=
  (1 / 6) * s._data_force s.ctr_0 s.ctr_1 s.ctr_2 2

def xi_72 (s : Site K) : K :=
  (1 / 2) * s._data_force s.ctr_0 s.ctr_1 s.ctr_2 1

def xi_76 (s : Site K) : K :=
  (1 / 12) * s._data_force s.ctr_0 s.ctr_1 s.ctr_2 0

def xi_80 (s : Site K) : K :=
  (1 / 12) * s._data_force s.ctr_0 s.ctr_1 s.ctr_2 1

def xi_90 (s : Site K) : K :=
  (1 / 12) * s._data_force s.ctr_0 s.ctr_1 s.ctr_2 2

def xi_108 (s : Site K) : K :=
  -s._data_pdfs s.ctr_0 s.ctr_1 s.ctr_2 0

def xi_109 (s : Site K) : K :=
  xi_108 s + 3 * s._data_pdfs s.ctr_0 s.ctr_1 (s.ctr_2 + 1) 6 + 3 * s._data_pdfs s.ctr_0 s.ctr_1 (s.ctr_2 - 1) 5

def xi_110 (s : Site K) : K :=
  s.omega_even * (xi_109 s - 3 * s._data_pdfs s.ctr_0 (s.ctr_1 - 1) (s.ctr_2 + 1) 15 - 3 * s._data_pdfs s.ctr_0 (s.ctr_1 + 1) (s.ctr_2 + 1) 16 - 3 * s._data_pdfs s.ctr_0 (s.ctr_1 - 1) (s.ctr_2 - 1) 11 - 3 * s._data_pdfs s.ctr_0 (s.ctr_1 + 1) (s.ctr_2 - 1) 12 + 3 * s._data_pdfs s.ctr_0 (s.ctr_1 - 1) s.ctr_2 1 + 3 * s._data_pdfs s.ctr_0 (s.ctr_1 + 1) s.ctr_2 2)

def xi_111 (s : Site K) : K :=
  2 * s._data_pdfs s.ctr_0 (s.ctr_1 - 1) (s.ctr_2 + 1) 15 + 2 * s._data_pdfs s.ctr_0 (s.ctr_1 + 1) (s.ctr_2 + 1) 16 + 2 * s._data_pdfs s.ctr_0 (s.ctr_1 - 1) (s.ctr_2 - 1) 11 + 2 * s._data_pdfs s.ctr_0 (s.ctr_1 + 1) (s.ctr_2 - 1) 12

def xi_112 (s : Site K) : K :=
  xi_111 s + 5 * s._data_pdfs (s.ctr_0 + 1) s.ctr_1 s.ctr_2 3 + 5 * s._data_pdfs (s.ctr_0 - 1) s.ctr_1 s.ctr_2 4

def xi_113 (s : Site K) : K :=
  s.omega_even * (xi_109 s + xi_112 s - 2 * s._data_pdfs s.ctr_0 (s.ctr_1 - 1) s.ctr_2 1 - 2 * s._data_pdfs s.ctr_0 (s.ctr_1 + 1) s.ctr_2 2 - 5 * s._data_pdfs (s.ctr_0 + 1) s.ctr_1 (s.ctr_2 + 1) 17 - 5 * s._data_pdfs (s.ctr_0 - 1) s.ctr_1 (s.ctr_2 + 1) 18 - 5 * s._data_pdfs (s.ctr_0 + 1) s.ctr_1 (s.ctr_2 - 1) 13 - 5 * s._data_pdfs (s.ctr_0 - 1) s.ctr_1 (s.ctr_2 - 1) 14)

def xi_116 (s : Site K) : K :=
  -s._data_pdfs s.ctr_0 (s.ctr_1 - 1) (s.ctr_2 - 1) 11

def xi_117 (s : Site K) : K :=
  xi_116 s + xi_22 s

def xi_118 (s : Site K) : K :=
  -s._data_pdfs (s.ctr_0 - 1) (s.ctr_1 - 1) s.ctr_2 8

def xi_121 (s : Site K) : K :=
  -s._data_pdfs (s.ctr_0 - 1) s.ctr_1 (s.ctr_2 - 1) 14

def xi_122 (s : Site K) : K :=
  xi_121 s + xi_19 s + xi_27 s

def xi_124 (s : Site K) : K :=
  2 * s._data_pdfs (s.ctr_0 + 1) s.ctr_1 (s.ctr_2 - 1) 13

def xi_125 (s : Site K) : K :=
  2 * s._data_pdfs (s.ctr_0 - 1) s.ctr_1 (s.ctr_2 - 1) 14

def xi_126 (s : Site K) : K :=
  2 * s._data_pdfs (s.ctr_0 + 1) s.ctr_1 (s.ctr_2 + 1) 17 + 2 * s._data_pdfs (s.ctr_0 - 1) s.ctr_1 (s.ctr_2 + 1) 18

def xi_127 (s : Site K) : K :=
  s.omega_even * (xi_108 s + xi_112 s + xi_124 s + xi_125 s + xi_126 s - 4 * s._data_pdfs s.ctr_0 s.ctr_1 (s.ctr_2 + 1) 6 - 4 * s._data_pdfs s.ctr_0 s.ctr_1 (s.ctr_2 - 1) 5 - 7 * s._data_pdfs (s.ctr_0 - 1) (s.ctr_1 + 1) s.ctr_2 10 - 7 * s._data_pdfs (s.ctr_0 + 1) (s.ctr_1 - 1) s.ctr_2 7 - 7 * s._data_pdfs (s.ctr_0 - 1) (s.ctr_1 - 1) s.ctr_2 8 - 7 * s._data_pdfs (s.ctr_0 + 1) (s.ctr_1 + 1) s.ctr_2 9 + 5 * s._data_pdfs s.ctr_0 (s.ctr_1 - 1) s.ctr_2 1 + 5 * s._data_pdfs s.ctr_0 (s.ctr_1 + 1) s.ctr_2 2)

def xi_128 (s : Site K) : K :=
  xi_116 s + xi_23 s + xi_38 s + s._data_pdfs s.ctr_0 (s.ctr_1 - 1) s.ctr_2 1 + s._data_pdfs s.ctr_0 (s.ctr_1 + 1) (s.ctr_2 - 1) 12

def xi_130 (s : Site K) : K :=
  xi_128 s * xi_129 s

def xi_135 (s : Site K) : K :=
  random_5_1 s - (1 / 2)

def xi_140 (s : Site K) : K :=
  2 * s._data_pdfs (s.ctr_0 + 1) (s.ctr_1 - 1) s.ctr_2 7

def xi_141 (s : Site K) : K :=
  2 * s._data_pdfs (s.ctr_0 - 1) (s.ctr_1 + 1) s.ctr_2 10

def xi_142 (s : Site K) : K :=
  -2 * s._data_pdfs (s.ctr_0 - 1) (s.ctr_1 - 1) s.ctr_2 8 + 2 * s._data_pdfs (s.ctr_0 + 1) (s.ctr_1 + 1) s.ctr_2 9

def xi_143 (s : Site K) : K :=
  -xi_140 s + xi_141 s + xi_142 s + xi_25 s + xi_4 s

def xi_145 (s : Site K) : K :=
  xi_143 s * xi_144 s

def xi_146 (s : Site K) : K :=
  random_3_0 s - (1 / 2)

def xi_151 (s : Site K) : K :=
  random_0_1 s - (1 / 2)

def xi_168 (s : Site K) : K :=
  xi_121 s + xi_13 s + xi_34 s + s._data_pdfs (s.ctr_0 - 1) s.ctr_1 s.ctr_2 4 + s._data_pdfs (s.ctr_0 + 1) s.ctr_1 (s.ctr_2 - 1) 13

def xi_169 (s : Site K) : K :=
  xi_129 s * xi_168 s

def xi_170 (s : Site K) : K :=
  random_4_1 s - (1 / 2)

def xi_172 (s : Site K) : K :=
  xi_14 s + xi_140 s - xi_141 s + xi_142 s + xi_35 s + s._data_pdfs (s.ctr_0 - 1) s.ctr_1 s.ctr_2 4 + s._data_pdfs (s.ctr_0 - 1) s.ctr_1 (s.ctr_2 + 1) 18

def xi_173 (s : Site K) : K :=
  xi_144 s * xi_172 s

def xi_174 (s : Site K) : K :=
  random_4_0 s - (1 / 2)

def xi_179 (s : Site K) : K :=
  s._data_pdfs s.ctr_0 (s.ctr_1 - 1) (s.ctr_2 + 1) 15 + s._data_pdfs s.ctr_0 (s.ctr_1 + 1) (s.ctr_2 + 1) 16

def xi_180 (s : Site K) : K :=
  xi_117 s + xi_179 s + xi_29 s + s._data_pdfs s.ctr_0 s.ctr_1 (s.ctr_2 - 1) 5

def xi_181 (s : Site K) : K :=
  xi_129 s * xi_180 s

def xi_184 (s : Site K) : K :=
  random_5_0 s - (1 / 2)

def xi_186 (s : Site K) : K :=
  -xi_124 s - xi_125 s + xi_126 s + xi_30 s + xi_6 s

def xi_187 (s : Site K) : K :=
  xi_144 s * xi_186 s

def xi_188 (s : Site K) : K :=
  random_3_1 s - (1 / 2)

def xi_195 (s : Site K) : K :=
  xi_127 s * (1 / 72)

def xi_216 (s : Site K) : K :=
  xi_113 s * -(1 / 140)

def xi_218 (s : Site K) : K :=
  xi_110 s * (1 / 40)

def xi_223 (s : Site K) : K :=
  xi_186 s * xi_222 s

def xi_225 (s : Site K) : K :=
  xi_180 s * xi_224 s

def xi_234 (s : Site K) : K :=
  xi_143 s * xi_222 s

def xi_235 (s : Site K) : K :=
  xi_128 s * xi_224 s

def xi_243 (s : Site K) : K :=
  xi_113 s * (1 / 56)

def xi_249 (s : Site K) : K :=
  xi_168 s * xi_224 s

def xi_250 (s : Site K) : K :=
  xi_172 s * xi_222 s

def vel0Term (s : Site K) : K :=
  xi_2 s

def vel1Term (s : Site K) : K :=
  xi_5 s

def vel2Term (s : Site K) : K :=
  xi_7 s

def rho (s : Site K) : K :=
  vel0Term s + vel1Term s + vel2Term s + xi_10 s + xi_8 s + xi_9 s + s._data_pdfs s.ctr_0 s.ctr_1 s.ctr_2 0

def xi_11 (s : Site K) : K :=
  1 / (rho s)

def xi_101 (s : Site K) : K :=
  s.kT * rho s

def xi_102 (s : Site K) : K :=
  s.sqrt (xi_101 s * (-((-s.omega_even + 1) * (-s.omega_even + 1)) + 1))

def xi_103 (s : Site K) : K :=
  xi_102 s * (random_6_0 s - (1 / 2)) * (37416573867739413 / 10000000000000000)

def xi_104 (s : Site K) : K :=
  xi_102 s * (random_7_0 s - (1 / 2)) * (54772255750516612 / 10000000000000000)

def xi_106 (s : Site K) : K :=
  xi_105 s * s.sqrt (xi_101 s * (-((xi_40 s + 1) * (xi_40 s + 1)) + 1)) * (random_2_1 s - (1 / 2))

def xi_107 (s : Site K) : K :=
  xi_102 s * (random_6_1 s - (1 / 2)) * (83666002653407556 / 10000000000000000)

def xi_136 (s : Site K) : K :=
  s.sqrt (xi_101 s * (-((-s.omega_odd + 1) * (-s.omega_odd + 1)) + 1))

def xi_137 (s : Site K) : K :=
  xi_136 s * (14142135623730951 / 10000000000000000)

def xi_138 (s : Site K) : K :=
  xi_137 s * (1 / 2)

def xi_139 (s : Site K) : K :=
  xi_135 s * xi_138 s

def xi_147 (s : Site K) : K :=
  xi_105 s * xi_136 s

def xi_148 (s : Site K) : K :=
  xi_147 s * (1 / 6)

def xi_149 (s : Site K) : K :=
  xi_146 s * xi_148 s

def xi_150 (s : Site K) : K :=
  -xi_145 s - xi_149 s

def xi_152 (s : Site K) : K :=
  s.sqrt (xi_101 s * (-((xi_51 s + 1) * (xi_51 s + 1)) + 1))

def xi_153 (s : Site K) : K :=
  xi_152 s * (1 / 2)

def xi_154 (s : Site K) : K :=
  xi_151 s * xi_153 s

def xi_158 (s : Site K) : K :=
  xi_103 s * -(5 / 42) + xi_127 s * -(5 / 252)

def xi_160 (s : Site K) : K :=
  xi_152 s * (random_0_0 s - (1 / 2)) * (17320508075688772 / 10000000000000000)

def xi_164 (s : Site K) : K :=
  xi_145 s + xi_149 s

def xi_171 (s : Site K) : K :=
  xi_138 s * xi_170 s

def xi_175 (s : Site K) : K :=
  xi_148 s * xi_174 s

def xi_176 (s : Site K) : K :=
  xi_173 s + xi_175 s

def xi_178 (s : Site K) : K :=
  -xi_173 s - xi_175 s

def xi_185 (s : Site K) : K :=
  xi_138 s * xi_184 s

def xi_189 (s : Site K) : K :=
  xi_148 s * xi_188 s

def xi_190 (s : Site K) : K :=
  -xi_187 s - xi_189 s

def xi_192 (s : Site K) : K :=
  xi_187 s + xi_189 s

def xi_193 (s : Site K) : K :=
  xi_151 s * xi_152 s * (1 / 4)

def xi_196 (s : Site K) : K :=
  xi_103 s * (1 / 12)

def xi_206 (s : Site K) : K :=
  xi_153 s * (random_1_0 s - (1 / 2))

def xi_215 (s : Site K) : K :=
  xi_153 s * (random_2_0 s - (1 / 2))

def xi_219 (s : Site K) : K :=
  xi_107 s * -(1 / 70)

def xi_220 (s : Site K) : K :=
  xi_104 s * (1 / 20)

def xi_226 (s : Site K) : K :=
  xi_147 s * (1 / 12)

def xi_227 (s : Site K) : K :=
  xi_188 s * xi_226 s

def xi_228 (s : Site K) : K :=
  xi_137 s * (1 / 4)

def xi_229 (s : Site K) : K :=
  xi_184 s * xi_228 s

def xi_231 (s : Site K) : K :=
  xi_103 s * -(1 / 42) + xi_127 s * -(1 / 252)

def xi_236 (s : Site K) : K :=
  xi_146 s * xi_226 s

def xi_237 (s : Site K) : K :=
  xi_135 s * xi_228 s

def xi_241 (s : Site K) : K :=
  -xi_193 s

def xi_244 (s : Site K) : K :=
  xi_107 s * (1 / 28)

def xi_246 (s : Site K) : K :=
  xi_153 s * (random_1_1 s - (1 / 2))

def xi_251 (s : Site K) : K :=
  xi_170 s * xi_228 s

def xi_252 (s : Site K) : K :=
  xi_174 s * xi_226 s

def u_0 (s : Site K) : K :=
  xi_11 s * (vel0Term s + xi_14 s + xi_19 s)

def xi_41 (s : Site K) : K :=
  u_0 s * s._data_force s.ctr_0 s.ctr_1 s.ctr_2 0

def xi_42 (s : Site K) : K :=
  xi_41 s * (1 / 3)

def xi_48 (s : Site K) : K :=
  -xi_42 s

def xi_114 (s : Site K) : K :=
  rho s * (u_0 s * u_0 s)

def xi_165 (s : Site K) : K :=
  rho s * u_0 s

def xi_166 (s : Site K) : K :=
  -vel0Term s + xi_165 s + xi_32 s

def xi_167 (s : Site K) : K :=
  xi_133 s * xi_166 s

def xi_202 (s : Site K) : K :=
  xi_166 s * xi_197 s

def u_1 (s : Site K) : K :=
  xi_11 s * (vel1Term s + xi_17 s + xi_21 s + xi_25 s)

def xi_43 (s : Site K) : K :=
  u_1 s * s._data_force s.ctr_0 s.ctr_1 s.ctr_2 1

def xi_44 (s : Site K) : K :=
  xi_43 s * (1 / 3)

def xi_49 (s : Site K) : K :=
  -xi_44 s

def xi_71 (s : Site K) : K :=
  u_1 s * (1 / 2)

def xi_74 (s : Site K) : K :=
  xi_73 s * (u_0 s * xi_72 s + xi_71 s * s._data_force s.ctr_0 s.ctr_1 s.ctr_2 0)

def xi_75 (s : Site K) : K :=
  -xi_74 s

def xi_119 (s : Site K) : K :=
  rho s * (u_1 s * u_1 s)

def xi_120 (s : Site K) : K :=
  xi_118 s + xi_119 s + xi_20 s

def xi_131 (s : Site K) : K :=
  rho s * u_1 s

def xi_132 (s : Site K) : K :=
  -vel1Term s + xi_118 s + xi_131 s + xi_37 s + s._data_pdfs (s.ctr_0 - 1) (s.ctr_1 + 1) s.ctr_2 10

def xi_134 (s : Site K) : K :=
  xi_132 s * xi_133 s

def xi_198 (s : Site K) : K :=
  xi_132 s * xi_197 s

def u_2 (s : Site K) : K :=
  xi_11 s * (vel2Term s + xi_27 s + xi_30 s + s._data_pdfs (s.ctr_0 - 1) s.ctr_1 (s.ctr_2 - 1) 14)

def xi_45 (s : Site K) : K :=
  u_2 s * s._data_force s.ctr_0 s.ctr_1 s.ctr_2 2

def xi_46 (s : Site K) : K :=
  xi_45 s * (1 / 3)

def xi_47 (s : Site K) : K :=
  (xi_40 s + 2) * (xi_42 s + xi_44 s + xi_46 s)

def xi_50 (s : Site K) : K :=
  xi_45 s * (2 / 3) + xi_48 s + xi_49 s

def xi_54 (s : Site K) : K :=
  -xi_46 s

def xi_55 (s : Site K) : K :=
  xi_43 s * (2 / 3) + xi_48 s + xi_54 s

def xi_56 (s : Site K) : K :=
  xi_41 s * (2 / 3) + xi_49 s + xi_54 s

def xi_59 (s : Site K) : K :=
  xi_50 s * xi_58 s

def xi_60 (s : Site K) : K :=
  -xi_59 s

def xi_61 (s : Site K) : K :=
  xi_56 s * xi_58 s

def xi_62 (s : Site K) : K :=
  -xi_61 s

def xi_64 (s : Site K) : K :=
  xi_55 s * xi_63 s + xi_60 s + xi_62 s

def xi_66 (s : Site K) : K :=
  xi_55 s * xi_58 s

def xi_67 (s : Site K) : K :=
  -xi_66 s

def xi_68 (s : Site K) : K :=
  xi_56 s * xi_63 s + xi_60 s + xi_67 s

def xi_70 (s : Site K) : K :=
  xi_50 s * xi_63 s + xi_62 s + xi_67 s

def xi_77 (s : Site K) : K :=
  xi_61 s - xi_76 s

def xi_79 (s : Site K) : K :=
  -xi_50 s * xi_78 s

def xi_81 (s : Site K) : K :=
  xi_47 s * (1 / 8)

def xi_82 (s : Site K) : K :=
  xi_66 s + xi_81 s

def xi_83 (s : Site K) : K :=
  xi_80 s + xi_82 s

def xi_84 (s : Site K) : K :=
  xi_79 s + xi_83 s

def xi_85 (s : Site K) : K :=
  xi_61 s + xi_76 s

def xi_86 (s : Site K) : K :=
  -xi_80 s + xi_82 s

def xi_87 (s : Site K) : K :=
  xi_79 s + xi_86 s

def xi_88 (s : Site K) : K :=
  xi_73 s * (u_2 s * xi_72 s + xi_71 s * s._data_force s.ctr_0 s.ctr_1 s.ctr_2 2)

def xi_89 (s : Site K) : K :=
  -xi_56 s * xi_78 s

def xi_91 (s : Site K) : K :=
  xi_59 s + xi_90 s

def xi_92 (s : Site K) : K :=
  xi_89 s + xi_91 s

def xi_93 (s : Site K) : K :=
  -xi_88 s

def xi_94 (s : Site K) : K :=
  xi_73 s * (u_0 s * (1 / 2) * s._data_force s.ctr_0 s.ctr_1 s.ctr_2 2 + u_2 s * (1 / 2) * s._data_force s.ctr_0 s.ctr_1 s.ctr_2 0)

def xi_95 (s : Site K) : K :=
  -xi_94 s

def xi_96 (s : Site K) : K :=
  -xi_55 s * xi_78 s

def xi_97 (s : Site K) : K :=
  xi_81 s + xi_91 s + xi_96 s

def xi_98 (s : Site K) : K :=
  xi_59 s - xi_90 s

def xi_99 (s : Site K) : K :=
  xi_89 s + xi_98 s

def xi_100 (s : Site K) : K :=
  xi_81 s + xi_96 s + xi_98 s

def xi_115 (s : Site K) : K :=
  rho s * (u_2 s * u_2 s)

def xi_123 (s : Site K) : K :=
  s.omega_bulk * (xi_114 s + xi_115 s + xi_117 s + xi_120 s + xi_122 s + xi_24 s + xi_28 s + s._data_pdfs s.ctr_0 s.ctr_1 s.ctr_2 0)

def xi_155 (s : Site K) : K :=
  -xi_115 s + s._data_pdfs s.ctr_0 s.ctr_1 (s.ctr_2 + 1) 6 + s._data_pdfs s.ctr_0 s.ctr_1 (s.ctr_2 - 1) 5

def xi_156 (s : Site K) : K :=
  s.omega_shear * (xi_1 s + xi_120 s + xi_155 s + xi_18 s + xi_23 s + xi_31 s - s._data_pdfs s.ctr_0 (s.ctr_1 - 1) s.ctr_2 1)

def xi_157 (s : Site K) : K :=
  xi_156 s * (1 / 8)

def xi_159 (s : Site K) : K :=
  s.omega_shear * (xi_111 s + xi_114 s * 2 + xi_118 s - xi_119 s + xi_122 s + xi_155 s + xi_20 s - 2 * s._data_pdfs (s.ctr_0 + 1) s.ctr_1 s.ctr_2 3 - 2 * s._data_pdfs (s.ctr_0 - 1) s.ctr_1 s.ctr_2 4 + s._data_pdfs s.ctr_0 (s.ctr_1 - 1) s.ctr_2 1 + s._data_pdfs s.ctr_0 (s.ctr_1 + 1) s.ctr_2 2)

def xi_161 (s : Site K) : K :=
  xi_159 s * -(1 / 24) + xi_160 s * -(1 / 6)

def xi_162 (s : Site K) : K :=
  xi_104 s * -(1 / 10) + xi_110 s * -(1 / 20) + xi_161 s

def xi_163 (s : Site K) : K :=
  xi_107 s * (1 / 35) + xi_113 s * (1 / 70) + xi_154 s + xi_157 s + xi_158 s + xi_162 s

def xi_177 (s : Site K) : K :=
  xi_107 s * -(1 / 14) + xi_113 s * -(1 / 28) + xi_158 s + xi_159 s * (1 / 12) + xi_160 s * (1 / 3)

def xi_182 (s : Site K) : K :=
  rho s * u_2 s - vel2Term s + xi_10 s + xi_116 s + xi_121 s + xi_179 s + s._data_pdfs (s.ctr_0 - 1) s.ctr_1 (s.ctr_2 + 1) 18

def xi_183 (s : Site K) : K :=
  xi_133 s * xi_182 s

def xi_191 (s : Site K) : K :=
  xi_103 s * (2 / 21) + xi_107 s * -(3 / 70) + xi_113 s * -(3 / 140) + xi_127 s * (1 / 63) - xi_154 s - xi_157 s + xi_162 s

def xi_194 (s : Site K) : K :=
  xi_156 s * (1 / 16)

def xi_199 (s : Site K) : K :=
  xi_106 s * (1 / 12) + xi_123 s * (1 / 24)

def xi_200 (s : Site K) : K :=
  xi_198 s + xi_199 s

def xi_201 (s : Site K) : K :=
  xi_164 s + xi_193 s + xi_194 s + xi_195 s + xi_196 s + xi_200 s

def xi_203 (s : Site K) : K :=
  xi_159 s * (1 / 48) + xi_160 s * (1 / 12)

def xi_204 (s : Site K) : K :=
  -xi_202 s + xi_203 s

def xi_205 (s : Site K) : K :=
  xi_178 s + xi_204 s

def xi_211 (s : Site K) : K :=
  xi_202 s + xi_203 s

def xi_212 (s : Site K) : K :=
  xi_176 s + xi_211 s

def xi_213 (s : Site K) : K :=
  -xi_198 s + xi_199 s

def xi_214 (s : Site K) : K :=
  xi_150 s + xi_193 s + xi_194 s + xi_195 s + xi_196 s + xi_213 s

def xi_230 (s : Site K) : K :=
  xi_182 s * xi_197 s

def xi_232 (s : Site K) : K :=
  xi_230 s + xi_231 s

def xi_233 (s : Site K) : K :=
  -xi_223 s + xi_225 s - xi_227 s + xi_229 s + xi_232 s

def xi_238 (s : Site K) : K :=
  xi_200 s - xi_234 s + xi_235 s - xi_236 s + xi_237 s

def xi_239 (s : Site K) : K :=
  xi_213 s + xi_234 s - xi_235 s + xi_236 s - xi_237 s

def xi_242 (s : Site K) : K :=
  -xi_194 s

def xi_245 (s : Site K) : K :=
  xi_192 s + xi_199 s + xi_232 s + xi_241 s + xi_242 s + xi_243 s + xi_244 s

def xi_253 (s : Site K) : K :=
  xi_204 s - xi_249 s + xi_250 s - xi_251 s + xi_252 s

def xi_255 (s : Site K) : K :=
  xi_211 s + xi_249 s - xi_250 s + xi_251 s - xi_252 s

def xi_256 (s : Site K) : K :=
  -xi_230 s + xi_231 s

def xi_257 (s : Site K) : K :=
  xi_223 s - xi_225 s + xi_227 s - xi_229 s + xi_256 s

def xi_258 (s : Site K) : K :=
  xi_190 s + xi_199 s + xi_241 s + xi_242 s + xi_243 s + xi_244 s + xi_256 s

def p_0 (s : Site K) : K :=
  xi_2 s + xi_32 s

def p_1 (s : Site K) : K :=
  xi_33 s

def xi_208 (s : Site K) : K :=
  xi_207 s * (-p_1 s + u_0 s * xi_131 s)

def xi_209 (s : Site K) : K :=
  -xi_206 s - xi_208 s

def xi_210 (s : Site K) : K :=
  xi_206 s + xi_208 s

def p_2 (s : Site K) : K :=
  xi_36 s

def xi_247 (s : Site K) : K :=
  xi_207 s * (-p_2 s + u_2 s * xi_165 s)

def xi_248 (s : Site K) : K :=
  -xi_246 s - xi_247 s

def xi_254 (s : Site K) : K :=
  xi_246 s + xi_247 s

def p_3 (s : Site K) : K :=
  xi_33 s

def p_4 (s : Site K) : K :=
  xi_0 s + xi_37 s + xi_5 s

def p_5 (s : Site K) : K :=
  xi_39 s

def xi_217 (s : Site K) : K :=
  xi_207 s * (-p_5 s + u_2 s * xi_131 s)

def xi_221 (s : Site K) : K :=
  xi_161 s + xi_215 s + xi_216 s + xi_217 s + xi_218 s + xi_219 s + xi_220 s

def xi_240 (s : Site K) : K :=
  xi_161 s - xi_215 s + xi_216 s - xi_217 s + xi_218 s + xi_219 s + xi_220 s

def p_6 (s : Site K) : K :=
  xi_36 s

def p_7 (s : Site K) : K :=
  xi_39 s

def p_8 (s : Site K) : K :=
  xi_1 s + xi_10 s + xi_3 s + xi_7 s + s._data_pdfs s.ctr_0 (s.ctr_1 + 1) (s.ctr_2 + 1) 16

def forceTerm_0 (s : Site K) : K :=
  xi_47 s * -(3 / 2) - xi_50 s * xi_53 s - xi_53 s * xi_55 s - xi_53 s * xi_56 s

def forceTerm_1 (s : Site K) : K :=
  xi_57 s + xi_64 s

def forceTerm_2 (s : Site K) : K :=
  -xi_57 s + xi_64 s

def forceTerm_3 (s : Site K) : K :=
  -xi_65 s + xi_68 s

def forceTerm_4 (s : Site K) : K :=
  xi_65 s + xi_68 s

def forceTerm_5 (s : Site K) : K :=
  xi_69 s + xi_70 s

def forceTerm_6 (s : Site K) : K :=
  -xi_69 s + xi_70 s

def forceTerm_7 (s : Site K) : K :=
  xi_75 s + xi_77 s + xi_84 s

def forceTerm_8 (s : Site K) : K :=
  xi_74 s + xi_84 s + xi_85 s

def forceTerm_9 (s : Site K) : K :=
  xi_74 s + xi_77 s + xi_87 s

def forceTerm_10 (s : Site K) : K :=
  xi_75 s + xi_85 s + xi_87 s

def forceTerm_11 (s : Site K) : K :=
  xi_83 s + xi_88 s + xi_92 s

def forceTerm_12 (s : Site K) : K :=
  xi_86 s + xi_92 s + xi_93 s

def forceTerm_13 (s : Site K) : K :=
  xi_77 s + xi_95 s + xi_97 s

def forceTerm_14 (s : Site K) : K :=
  xi_85 s + xi_94 s + xi_97 s

def forceTerm_15 (s : Site K) : K :=
  xi_83 s + xi_93 s + xi_99 s

def forceTerm_16 (s : Site K) : K :=
  xi_86 s + xi_88 s + xi_99 s

def forceTerm_17 (s : Site K) : K :=
  xi_100 s + xi_77 s + xi_94 s

def forceTerm_18 (s : Site K) : K :=
  xi_100 s + xi_85 s + xi_95 s

def store_0 (s : Site K) : K :=
  forceTerm_0 s + xi_103 s * (1 / 7) + xi_104 s * (1 / 5) - xi_106 s + xi_107 s * (3 / 35) + xi_110 s * (1 / 10) + xi_113 s * (3 / 70) + xi_123 s * -(1 / 2) + xi_127 s * (1 / 42) + s._data_pdfs s.ctr_0 s.ctr_1 s.ctr_2 0

def store_1 (s : Site K) : K :=
  forceTerm_1 s - xi_130 s + xi_134 s - xi_139 s + xi_150 s + xi_163 s + s._data_pdfs s.ctr_0 (s.ctr_1 - 1) s.ctr_2 1

def store_2 (s : Site K) : K :=
  forceTerm_2 s + xi_130 s - xi_134 s + xi_139 s + xi_163 s + xi_164 s + s._data_pdfs s.ctr_0 (s.ctr_1 + 1) s.ctr_2 2

def store_3 (s : Site K) : K :=
  forceTerm_3 s - xi_167 s + xi_169 s + xi_171 s + xi_176 s + xi_177 s + s._data_pdfs (s.ctr_0 + 1) s.ctr_1 s.ctr_2 3

def store_4 (s : Site K) : K :=
  forceTerm_4 s + xi_167 s - xi_169 s - xi_171 s + xi_177 s + xi_178 s + s._data_pdfs (s.ctr_0 - 1) s.ctr_1 s.ctr_2 4

def store_5 (s : Site K) : K :=
  forceTerm_5 s - xi_181 s + xi_183 s - xi_185 s + xi_190 s + xi_191 s + s._data_pdfs s.ctr_0 s.ctr_1 (s.ctr_2 - 1) 5

def store_6 (s : Site K) : K :=
  forceTerm_6 s + xi_181 s - xi_183 s + xi_185 s + xi_191 s + xi_192 s + s._data_pdfs s.ctr_0 s.ctr_1 (s.ctr_2 + 1) 6

def store_7 (s : Site K) : K :=
  forceTerm_7 s + xi_201 s + xi_205 s + xi_209 s + s._data_pdfs (s.ctr_0 + 1) (s.ctr_1 - 1) s.ctr_2 7

def store_8 (s : Site K) : K :=
  forceTerm_8 s + xi_201 s + xi_210 s + xi_212 s + s._data_pdfs (s.ctr_0 - 1) (s.ctr_1 - 1) s.ctr_2 8

def store_9 (s : Site K) : K :=
  forceTerm_9 s + xi_205 s + xi_210 s + xi_214 s + s._data_pdfs (s.ctr_0 + 1) (s.ctr_1 + 1) s.ctr_2 9

def store_10 (s : Site K) : K :=
  forceTerm_10 s + xi_209 s + xi_212 s + xi_214 s + s._data_pdfs (s.ctr_0 - 1) (s.ctr_1 + 1) s.ctr_2 10

def store_11 (s : Site K) : K :=
  forceTerm_11 s + xi_221 s + xi_233 s + xi_238 s + s._data_pdfs s.ctr_0 (s.ctr_1 - 1) (s.ctr_2 - 1) 11

def store_12 (s : Site K) : K :=
  forceTerm_12 s + xi_233 s + xi_239 s + xi_240 s + s._data_pdfs s.ctr_0 (s.ctr_1 + 1) (s.ctr_2 - 1) 12

def store_13 (s : Site K) : K :=
  forceTerm_13 s + xi_245 s + xi_248 s + xi_253 s + s._data_pdfs (s.ctr_0 + 1) s.ctr_1 (s.ctr_2 - 1) 13

def store_14 (s : Site K) : K :=
  forceTerm_14 s + xi_245 s + xi_254 s + xi_255 s + s._data_pdfs (s.ctr_0 - 1) s.ctr_1 (s.ctr_2 - 1) 14

def store_15 (s : Site K) : K :=
  forceTerm_15 s + xi_238 s + xi_240 s + xi_257 s + s._data_pdfs s.ctr_0 (s.ctr_1 - 1) (s.ctr_2 + 1) 15

def store_16 (s : Site K) : K :=
  forceTerm_16 s + xi_221 s + xi_239 s + xi_257 s + s._data_pdfs s.ctr_0 (s.ctr_1 + 1) (s.ctr_2 + 1) 16

def store_17 (s : Site K) : K :=
  forceTerm_17 s + xi_253 s + xi_254 s + xi_258 s + s._data_pdfs (s.ctr_0 + 1) s.ctr_1 (s.ctr_2 + 1) 17

def store_18 (s : Site K) : K :=
  forceTerm_18 s + xi_248 s + xi_255 s + xi_258 s + s._data_pdfs (s.ctr_0 - 1) s.ctr_1 (s.ctr_2 + 1) 18

/-- The value stored to each of the nineteen slots of the current cell. -/
def values (s : Site K) : Fin 19 → K :=
  ![store_0 s, store_1 s, store_2 s, store_3 s, store_4 s, store_5 s, store_6 s,
    store_7 s, store_8 s, store_9 s, store_10 s, store_11 s, store_12 s,
    store_13 s, store_14 s, store_15 s, store_16 s, store_17 s, store_18 s]

end kernel_streamCollide

/-! ### Loop body of the scalar `kernel_stream` (lines 1021-1039) -/

namespace kernel_stream

def store_0 (_data_pdfs : PdfField K) (ctr_0 ctr_1 ctr_2 : Int) : K :=
  _data_pdfs ctr_0 ctr_1 ctr_2 0

def store_1 (_data_pdfs : PdfField K) (ctr_0 ctr_1 ctr_2 : Int) : K :=
  _data_pdfs ctr_0 (ctr_1 - 1) ctr_2 1

def store_2 (_data_pdfs : PdfField K) (ctr_0 ctr_1 ctr_2 : Int) : K :=
  _data_pdfs ctr_0 (ctr_1 + 1) ctr_2 2

def store_3 (_data_pdfs : PdfField K) (ctr_0 ctr_1 ctr_2 : Int) : K :=
  _data_pdfs (ctr_0 + 1) ctr_1 ctr_2 3

def store_4 (_data_pdfs : PdfField K) (ctr_0 ctr_1 ctr_2 : Int) : K :=
  _data_pdfs (ctr_0 - 1) ctr_1 ctr_2 4

def store_5 (_data_pdfs : PdfField K) (ctr_0 ctr_1 ctr_2 : Int) : K :=
  _data_pdfs ctr_0 ctr_1 (ctr_2 - 1) 5

def store_6 (_data_pdfs : PdfField K) (ctr_0 ctr_1 ctr_2 : Int) : K :=
  _data_pdfs ctr_0 ctr_1 (ctr_2 + 1) 6

def store_7 (_data_pdfs : PdfField K) (ctr_0 ctr_1 ctr_2 : Int) : K :=
  _data_pdfs (ctr_0 + 1) (ctr_1 - 1) ctr_2 7

def store_8 (_data_pdfs : PdfField K) (ctr_0 ctr_1 ctr_2 : Int) : K :=
  _data_pdfs (ctr_0 - 1) (ctr_1 - 1) ctr_2 8

def store_9 (_data_pdfs : PdfField K) (ctr_0 ctr_1 ctr_2 : Int) : K :=
  _data_pdfs (ctr_0 + 1) (ctr_1 + 1) ctr_2 9

def store_10 (_data_pdfs : PdfField K) (ctr_0 ctr_1 ctr_2 : Int) : K :=
  _data_pdfs (ctr_0 - 1) (ctr_1 + 1) ctr_2 10

def store_11 (_data_pdfs : PdfField K) (ctr_0 ctr_1 ctr_2 : Int) : K :=
  _data_pdfs ctr_0 (ctr_1 - 1) (ctr_2 - 1) 11

def store_12 (_data_pdfs : PdfField K) (ctr_0 ctr_1 ctr_2 : Int) : K :=
  _data_pdfs ctr_0 (ctr_1 + 1) (ctr_2 - 1) 12

def store_13 (_data_pdfs : PdfField K) (ctr_0 ctr_1 ctr_2 : Int) : K :=
  _data_pdfs (ctr_0 + 1) ctr_1 (ctr_2 - 1) 13

def store_14 (_data_pdfs : PdfField K) (ctr_0 ctr_1 ctr_2 : Int) : K :=
  _data_pdfs (ctr_0 - 1) ctr_1 (ctr_2 - 1) 14

def store_15 (_data_pdfs : PdfField K) (ctr_0 ctr_1 ctr_2 : Int) : K :=
  _data_pdfs ctr_0 (ctr_1 - 1) (ctr_2 + 1) 15

def store_16 (_data_pdfs : PdfField K) (ctr_0 ctr_1 ctr_2 : Int) : K :=
  _data_pdfs ctr_0 (ctr_1 + 1) (ctr_2 + 1) 16

def store_17 (_data_pdfs : PdfField K) (ctr_0 ctr_1 ctr_2 : Int) : K :=
  _data_pdfs (ctr_0 + 1) ctr_1 (ctr_2 + 1) 17

def store_18 (_data_pdfs : PdfField K) (ctr_0 ctr_1 ctr_2 : Int) : K :=
  _data_pdfs (ctr_0 - 1) ctr_1 (ctr_2 + 1) 18

/-- The value stored to each of the nineteen slots of the current cell. -/
def values (_data_pdfs : PdfField K) (ctr_0 ctr_1 ctr_2 : Int) : Fin 19 → K :=
  ![store_0 _data_pdfs ctr_0 ctr_1 ctr_2, store_1 _data_pdfs ctr_0 ctr_1 ctr_2, store_2 _data_pdfs ctr_0 ctr_1 ctr_2, store_3 _data_pdfs ctr_0 ctr_1 ctr_2, store_4 _data_pdfs ctr_0 ctr_1 ctr_2, store_5 _data_pdfs ctr_0 ctr_1 ctr_2, store_6 _data_pdfs ctr_0 ctr_1 ctr_2,
    store_7 _data_pdfs ctr_0 ctr_1 ctr_2, store_8 _data_pdfs ctr_0 ctr_1 ctr_2, store_9 _data_pdfs ctr_0 ctr_1 ctr_2, store_10 _data_pdfs ctr_0 ctr_1 ctr_2, store_11 _data_pdfs ctr_0 ctr_1 ctr_2, store_12 _data_pdfs ctr_0 ctr_1 ctr_2,
    store_13 _data_pdfs ctr_0 ctr_1 ctr_2, store_14 _data_pdfs ctr_0 ctr_1 ctr_2, store_15 _data_pdfs ctr_0 ctr_1 ctr_2, store_16 _data_pdfs ctr_0 ctr_1 ctr_2, store_17 _data_pdfs ctr_0 ctr_1 ctr_2, store_18 _data_pdfs ctr_0 ctr_1 ctr_2]

end kernel_stream


/-- The scalar `internal_kernel_collide::kernel_collide`: every cell of the box
`[0, _size_force_0) x [0, _size_force_1) x [0, _size_force_2)` is collided in place. -/
def kernel_collide (sqrt : K → K) (philox_double2 : Philox K) (_data_force : ForceField K)
    (_data_pdfs : PdfField K) (_size_force_0 _size_force_1 _size_force_2 : Int)
    (block_offset_0 block_offset_1 block_offset_2 : Nat)
    (kT omega_bulk omega_even omega_odd omega_shear : K) (seed time_step : Nat) : PdfField K :=
  forLoop 0 _size_force_2 1 (fun ctr_2 pdfs =>
    forLoop 0 _size_force_1 1 (fun ctr_1 pdfs =>
      forLoop 0 _size_force_0 1 (fun ctr_0 pdfs =>
        storeSite pdfs ctr_0 ctr_1 ctr_2
          (kernel_collide.values ⟨sqrt, philox_double2, _data_force, pdfs,
            block_offset_0, block_offset_1, block_offset_2,
            kT, omega_bulk, omega_even, omega_odd, omega_shear, seed, time_step,
            ctr_0, ctr_1, ctr_2⟩)) pdfs) pdfs) _data_pdfs

/-- The scalar `internal_kernel_streamCollide::kernel_streamCollide`: every interior cell of the
box is written into `_data_pdfs_tmp` from the neighbours in `_data_pdfs`; the result is the
new content of `_data_pdfs_tmp`. -/
def kernel_streamCollide (sqrt : K → K) (philox_double2 : Philox K) (_data_force : ForceField K)
    (_data_pdfs _data_pdfs_tmp : PdfField K) (_size_force_0 _size_force_1 _size_force_2 : Int)
    (block_offset_0 block_offset_1 block_offset_2 : Nat)
    (kT omega_bulk omega_even omega_odd omega_shear : K) (seed time_step : Nat) : PdfField K :=
  forLoop 1 (_size_force_2 - 1) 1 (fun ctr_2 tmp =>
    forLoop 1 (_size_force_1 - 1) 1 (fun ctr_1 tmp =>
      forLoop 1 (_size_force_0 - 1) 1 (fun ctr_0 tmp =>
        storeSite tmp ctr_0 ctr_1 ctr_2
          (kernel_streamCollide.values ⟨sqrt, philox_double2, _data_force, _data_pdfs,
            block_offset_0, block_offset_1, block_offset_2,
            kT, omega_bulk, omega_even, omega_odd, omega_shear, seed, time_step,
            ctr_0, ctr_1, ctr_2⟩)) tmp) tmp) _data_pdfs_tmp

/-- The scalar `internal_kernel_stream::kernel_stream`; the result is the new content of
`_data_pdfs_tmp`. -/
def kernel_stream (_data_pdfs _data_pdfs_tmp : PdfField K)
    (_size_pdfs_0 _size_pdfs_1 _size_pdfs_2 : Int) : PdfField K :=
  forLoop 1 (_size_pdfs_2 - 1) 1 (fun ctr_2 tmp =>
    forLoop 1 (_size_pdfs_1 - 1) 1 (fun ctr_1 tmp =>
      forLoop 1 (_size_pdfs_0 - 1) 1 (fun ctr_0 tmp =>
        storeSite tmp ctr_0 ctr_1 ctr_2
          (kernel_stream.values _data_pdfs ctr_0 ctr_1 ctr_2)) tmp) tmp) _data_pdfs_tmp

/-- `FluctuatingMRTLatticeModel::w`, the lattice weights. -/
def w : Fin 19 → K :=
  ![1 / 3, 1 / 18, 1 / 18, 1 / 18, 1 / 18, 1 / 18, 1 / 18, 1 / 36, 1 / 36, 1 / 36, 1 / 36,
    1 / 36, 1 / 36, 1 / 36, 1 / 36, 1 / 36, 1 / 36, 1 / 36, 1 / 36]


/-- Modelled from the spec: `field::GhostLayerField<double, n>` of the block/field container
library, a structured grid with ghost layers.  Cell `(0, 0, 0)` is the first owned cell,
the owned cells are `[0, xSize) x [0, ySize) x [0, zSize)`, cells with a negative index or an
index past the size are ghost cells. -/
structure GhostLayerField (K : Type) (n : Nat) where
  data : Int → Int → Int → Fin n → K
  xSize : Nat
  ySize : Nat
  zSize : Nat
  nrOfGhostLayers : Nat

/-- Modelled from the spec: `GhostLayerField::dataAt(x, y, z, 0)`, the pointer to a cell, seen
as the field indexed from that cell. -/
def GhostLayerField.dataAt {n : Nat} (fld : GhostLayerField K n) (x y z : Int) :
    Int → Int → Int → Fin n → K :=
  fun i j k f => fld.data (x + i) (y + j) (z + k) f

/-- The field whose memory, seen from the pointer `dataAt(x, y, z, 0)`, is `mem`. -/
def GhostLayerField.withDataAt {n : Nat} (fld : GhostLayerField K n) (x y z : Int)
    (mem : Int → Int → Int → Fin n → K) : GhostLayerField K n :=
  { fld with data := fun i j k f => mem (i - x) (j - y) (k - z) f }

/-- The members of `FluctuatingMRTLatticeModel` the sweeps read (`lm.force_`, `lm.omega_even_`,
...). -/
structure LatticeModel (K : Type) where
  force_ : GhostLayerField K 3
  omega_even_ : K
  omega_odd_ : K
  block_offset_2_ : Nat
  block_offset_0_ : Nat
  omega_shear_ : K
  block_offset_1_ : Nat
  omega_bulk_ : K
  seed_ : Nat
  kT_ : K
  time_step_ : Nat

/-- What a sweep sees of a block: the population field `pdfs` with its lattice model, and the
temporary field `pdfs_tmp` found in (or cloned into) `cache_pdfs_`. -/
structure Block (K : Type) where
  pdfs : GhostLayerField K 19
  pdfs_tmp : GhostLayerField K 19
  lm : LatticeModel K

namespace Sweep

/-- `FluctuatingMRTLatticeModel::Sweep::streamCollide`. -/
def streamCollide (sqrt : K → K) (philox_double2 : Philox K) (block : Block K)
    (numberOfGhostLayersToInclude : Nat) : Block K :=
  let pdfs := block.pdfs
  let pdfs_tmp := block.pdfs_tmp
  let lm := block.lm
  let force := lm.force_
  let o : Int := -(numberOfGhostLayersToInclude : Int) - 1
  let _data_force := force.dataAt o o o
  let _data_pdfs := pdfs.dataAt o o o
  let _data_pdfs_tmp := pdfs_tmp.dataAt o o o
  let _size_force_0 : Int := (force.xSize : Int) + 2 * (numberOfGhostLayersToInclude : Int) + 2
  let _size_force_1 : Int := (force.ySize : Int) + 2 * (numberOfGhostLayersToInclude : Int) + 2
  let _size_force_2 : Int := (force.zSize : Int) + 2 * (numberOfGhostLayersToInclude : Int) + 2
  let written := kernel_streamCollide sqrt philox_double2 _data_force _data_pdfs _data_pdfs_tmp
    _size_force_0 _size_force_1 _size_force_2
    lm.block_offset_0_ lm.block_offset_1_ lm.block_offset_2_
    lm.kT_ lm.omega_bulk_ lm.omega_even_ lm.omega_odd_ lm.omega_shear_ lm.seed_ lm.time_step_
  { block with
    pdfs := { pdfs with data := (pdfs_tmp.withDataAt o o o written).data }
    pdfs_tmp := { pdfs_tmp with data := pdfs.data } }

/-- `FluctuatingMRTLatticeModel::Sweep::collide`. -/
def collide (sqrt : K → K) (philox_double2 : Philox K) (block : Block K)
    (numberOfGhostLayersToInclude : Nat) : Block K :=
  let pdfs := block.pdfs
  let lm := block.lm
  let force := lm.force_
  let o : Int := -(numberOfGhostLayersToInclude : Int)
  let _data_force := force.dataAt o o o
  let _data_pdfs := pdfs.dataAt o o o
  let _size_force_0 : Int := (force.xSize : Int) + 2 * (numberOfGhostLayersToInclude : Int)
  let _size_force_1 : Int := (force.ySize : Int) + 2 * (numberOfGhostLayersToInclude : Int)
  let _size_force_2 : Int := (force.zSize : Int) + 2 * (numberOfGhostLayersToInclude : Int)
  let written := kernel_collide sqrt philox_double2 _data_force _data_pdfs
    _size_force_0 _size_force_1 _size_force_2
    lm.block_offset_0_ lm.block_offset_1_ lm.block_offset_2_
    lm.kT_ lm.omega_bulk_ lm.omega_even_ lm.omega_odd_ lm.omega_shear_ lm.seed_ lm.time_step_
  { block with pdfs := pdfs.withDataAt o o o written }

/-- `FluctuatingMRTLatticeModel::Sweep::stream`. -/
def stream (block : Block K) (numberOfGhostLayersToInclude : Nat) : Block K :=
  let pdfs := block.pdfs
  let pdfs_tmp := block.pdfs_tmp
  let o : Int := -(numberOfGhostLayersToInclude : Int) - 1
  let _data_pdfs := pdfs.dataAt o o o
  let _data_pdfs_tmp := pdfs_tmp.dataAt o o o
  let _size_pdfs_0 : Int := (pdfs.xSize : Int) + 2 * (numberOfGhostLayersToInclude : Int) + 2
  let _size_pdfs_1 : Int := (pdfs.ySize : Int) + 2 * (numberOfGhostLayersToInclude : Int) + 2
  let _size_pdfs_2 : Int := (pdfs.zSize : Int) + 2 * (numberOfGhostLayersToInclude : Int) + 2
  let written := kernel_stream _data_pdfs _data_pdfs_tmp _size_pdfs_0 _size_pdfs_1 _size_pdfs_2
  { block with
    pdfs := { pdfs with data := (pdfs_tmp.withDataAt o o o written).data }
    pdfs_tmp := { pdfs_tmp with data := pdfs.data } }

end Sweep


end FluctuatingMRTLatticeModel

/-! ### AVX intrinsics

`__m256d` is four `double` lanes, lane 0 the lowest; `__m256i` is eight `uint32` lanes.
The intrinsics of `<immintrin.h>` act lane by lane. -/

/-- `_mm256_set_pd(e3, e2, e1, e0)`: lane `i` holds `e_i`. -/
def _mm256_set_pd (e3 e2 e1 e0 : K) : Fin 4 → K := ![e0, e1, e2, e3]

/-- `_mm256_add_pd`. -/
def _mm256_add_pd (a b : Fin 4 → K) : Fin 4 → K := fun i => a i + b i

/-- `_mm256_mul_pd`. -/
def _mm256_mul_pd (a b : Fin 4 → K) : Fin 4 → K := fun i => a i * b i

/-- `_mm256_div_pd`. -/
def _mm256_div_pd (a b : Fin 4 → K) : Fin 4 → K := fun i => a i / b i

/-- `_mm256_sqrt_pd`. -/
def _mm256_sqrt_pd (sqrt : K → K) (a : Fin 4 → K) : Fin 4 → K := fun i => sqrt (a i)

/-- `_mm256_load_pd(&row[i])`: the four consecutive doubles `row[i], ..., row[i+3]`. -/
def _mm256_load_pd (row : Int → K) (i : Int) : Fin 4 → K := fun k => row (i + ((k : Nat) : Int))

/-- `_mm256_loadu_pd(&row[i])`: as `_mm256_load_pd`, without the alignment requirement. -/
def _mm256_loadu_pd (row : Int → K) (i : Int) : Fin 4 → K := fun k => row (i + ((k : Nat) : Int))

/-- `_mm256_set_epi32(e7, ..., e0)`: lane `i` holds `e_i` converted to 32 bits. -/
def _mm256_set_epi32 (e7 e6 e5 e4 e3 e2 e1 e0 : Int) : Fin 8 → Nat :=
  fun i => u32 (![e0, e1, e2, e3, e4, e5, e6, e7] i)

/-- `_mm256_add_epi32`: lane-wise addition modulo `2^32`. -/
def _mm256_add_epi32 (a b : Fin 8 → Nat) : Fin 8 → Nat := fun i => (a i + b i) % 4294967296

/-- Modelled from the spec: the vector overload
`philox_double2(uint32 ctr0, __m256i ctr1, uint32 ctr2, uint32 ctr3, uint32 key0, uint32 key1, __m256d & rnd1, __m256d & rnd2)`
of `philox_rand.h`, which is not among the sources.  The spec (4.1) requires it to be "purely
a batched evaluation of the same pure function": double lane `k` is the scalar generator at
counter lane `k` of `ctr1`. -/
def philox_double2_m256 (philox_double2 : Philox K) (ctr0 : Nat) (ctr1 : Fin 8 → Nat)
    (ctr2 ctr3 key0 key1 : Nat) : (Fin 4 → K) × (Fin 4 → K) :=
  (fun k => (philox_double2 ctr0 (ctr1 (Fin.castLE (by decide) k)) ctr2 ctr3 key0 key1).1,
   fun k => (philox_double2 ctr0 (ctr1 (Fin.castLE (by decide) k)) ctr2 ctr3 key0 key1).2)

/-- The four-lane store `_mm256_store_pd(&row_q[x], v q)` for each of the nineteen slots:
cell `(x + k, y, z)` receives lane `k`. -/
def storeLanes (fld : PdfField K) (x y z : Int) (v : Fin 19 → Fin 4 → K) : PdfField K :=
  fun x' y' z' q =>
    if h : x ≤ x' ∧ x' < x + 4 ∧ y' = y ∧ z' = z then v q ⟨(x' - x).toNat, by omega⟩
    else fld x' y' z' q

/-- The upper bound `(n % 4 == 0 ? n : ((int64_t)(n / 4) + 1) * 4)` of the vectorised x loop;
`%` and `/` are the C operators, which truncate towards zero. -/
def roundUp4 (n : Int) : Int := if Int.tmod n 4 = 0 then n else (Int.tdiv n 4 + 1) * 4


namespace FluctuatingMRTLatticeModelAvx

/-! ### Loop body of the AVX `kernel_collide` (lines 507-933) -/

namespace kernel_collide

def xi_40 (s : Site K) : K :=
  -s.omega_bulk

def xi_51 (s : Site K) : K :=
  -s.omega_shear

def xi_52 (s : Site K) : K :=
  xi_51 s + 2

def xi_53 (s : Site K) : K :=
  xi_52 s * (1 / 2)

def xi_58 (s : Site K) : K :=
  xi_52 s * (1 / 12)

def xi_63 (s : Site K) : K :=
  xi_52 s * (1 / 6)

def xi_73 (s : Site K) : K :=
  xi_52 s * (1 / 4)

def xi_78 (s : Site K) : K :=
  xi_52 s * (1 / 24)

def xi_105 (s : Site K) : K :=
  (24494897427831779 / 10000000000000000)

def xi_129 (s : Site K) : K :=
  s.omega_odd * (1 / 4)

def xi_144 (s : Site K) : K :=
  s.omega_odd * (1 / 12)

def xi_207 (s : Site K) : K :=
  s.omega_shear * (1 / 4)

def xi_222 (s : Site K) : K :=
  s.omega_odd * (1 / 24)

def xi_224 (s : Site K) : K :=
  s.omega_odd * (1 / 8)

def rr_0 (s : Site K) : K :=
  0

def xi_133 (s : Site K) : K :=
  rr_0 s * (1 / 6)

def xi_197 (s : Site K) : K :=
  rr_0 s * (1 / 12)

def xi_259 (s : Site K) : Fin 4 → K :=
  _mm256_load_pd (fun x => s._data_pdfs x s.ctr_1 s.ctr_2 8) s.ctr_0

def xi_260 (s : Site K) : Fin 4 → K :=
  _mm256_load_pd (fun x => s._data_pdfs x s.ctr_1 s.ctr_2 1) s.ctr_0

def xi_261 (s : Site K) : Fin 4 → K :=
  _mm256_load_pd (fun x => s._data_pdfs x s.ctr_1 s.ctr_2 5) s.ctr_0

def xi_262 (s : Site K) : Fin 4 → K :=
  _mm256_load_pd (fun x => s._data_pdfs x s.ctr_1 s.ctr_2 18) s.ctr_0

def xi_263 (s : Site K) : Fin 4 → K :=
  _mm256_load_pd (fun x => s._data_pdfs x s.ctr_1 s.ctr_2 0) s.ctr_0

def xi_264 (s : Site K) : Fin 4 → K :=
  _mm256_load_pd (fun x => s._data_pdfs x s.ctr_1 s.ctr_2 11) s.ctr_0

def xi_265 (s : Site K) : Fin 4 → K :=
  _mm256_load_pd (fun x => s._data_pdfs x s.ctr_1 s.ctr_2 10) s.ctr_0

def xi_266 (s : Site K) : Fin 4 → K :=
  _mm256_load_pd (fun x => s._data_pdfs x s.ctr_1 s.ctr_2 4) s.ctr_0

def xi_267 (s : Site K) : Fin 4 → K :=
  _mm256_load_pd (fun x => s._data_pdfs x s.ctr_1 s.ctr_2 6) s.ctr_0

def xi_268 (s : Site K) : Fin 4 → K :=
  _mm256_load_pd (fun x => s._data_pdfs x s.ctr_1 s.ctr_2 3) s.ctr_0

def xi_269 (s : Site K) : Fin 4 → K :=
  _mm256_load_pd (fun x => s._data_pdfs x s.ctr_1 s.ctr_2 7) s.ctr_0

def xi_270 (s : Site K) : Fin 4 → K :=
  _mm256_load_pd (fun x => s._data_pdfs x s.ctr_1 s.ctr_2 15) s.ctr_0

def xi_271 (s : Site K) : Fin 4 → K :=
  _mm256_load_pd (fun x => s._data_force x s.ctr_1 s.ctr_2 1) s.ctr_0

def xi_272 (s : Site K) : Fin 4 → K :=
  _mm256_load_pd (fun x => s._data_pdfs x s.ctr_1 s.ctr_2 14) s.ctr_0

def xi_273 (s : Site K) : Fin 4 → K :=
  _mm256_load_pd (fun x => s._data_force x s.ctr_1 s.ctr_2 2) s.ctr_0

def xi_274 (s : Site K) : Fin 4 → K :=
  _mm256_load_pd (fun x => s._data_pdfs x s.ctr_1 s.ctr_2 9) s.ctr_0

def xi_275 (s : Site K) : Fin 4 → K :=
  _mm256_load_pd (fun x => s._data_pdfs x s.ctr_1 s.ctr_2 13) s.ctr_0

def xi_276 (s : Site K) : Fin 4 → K :=
  _mm256_load_pd (fun x => s._data_pdfs x s.ctr_1 s.ctr_2 17) s.ctr_0

def xi_277 (s : Site K) : Fin 4 → K :=
  _mm256_load_pd (fun x => s._data_force x s.ctr_1 s.ctr_2 0) s.ctr_0

def xi_278 (s : Site K) : Fin 4 → K :=
  _mm256_load_pd (fun x => s._data_pdfs x s.ctr_1 s.ctr_2 2) s.ctr_0

def xi_279 (s : Site K) : Fin 4 → K :=
  _mm256_load_pd (fun x => s._data_pdfs x s.ctr_1 s.ctr_2 12) s.ctr_0

def xi_280 (s : Site K) : Fin 4 → K :=
  _mm256_load_pd (fun x => s._data_pdfs x s.ctr_1 s.ctr_2 16) s.ctr_0

def random_7 (s : Site K) : (Fin 4 → K) × (Fin 4 → K) :=
  philox_double2_m256 s.philox_double2 s.time_step (_mm256_add_epi32 (_mm256_add_epi32 (_mm256_set_epi32 (s.block_offset_0) (s.block_offset_0) (s.block_offset_0) (s.block_offset_0) (s.block_offset_0) (s.block_offset_0) (s.block_offset_0) (s.block_offset_0)) (_mm256_set_epi32 (7) (6) (5) (4) (3) (2) (1) (0))) (_mm256_set_epi32 (s.ctr_0) (s.ctr_0) (s.ctr_0) (s.ctr_0) (s.ctr_0) (s.ctr_0) (s.ctr_0) (s.ctr_0))) (u32 (s.block_offset_1 + s.ctr_1)) (u32 (s.block_offset_2 + s.ctr_2)) 7 s.seed

def random_7_0 (s : Site K) : Fin 4 → K :=
  (random_7 s).1

def random_7_1 (s : Site K) : Fin 4 → K :=
  (random_7 s).2

def random_6 (s : Site K) : (Fin 4 → K) × (Fin 4 → K) :=
  philox_double2_m256 s.philox_double2 s.time_step (_mm256_add_epi32 (_mm256_add_epi32 (_mm256_set_epi32 (s.block_offset_0) (s.block_offset_0) (s.block_offset_0) (s.block_offset_0) (s.block_offset_0) (s.block_offset_0) (s.block_offset_0) (s.block_offset_0)) (_mm256_set_epi32 (7) (6) (5) (4) (3) (2) (1) (0))) (_mm256_set_epi32 (s.ctr_0) (s.ctr_0) (s.ctr_0) (s.ctr_0) (s.ctr_0) (s.ctr_0) (s.ctr_0) (s.ctr_0))) (u32 (s.block_offset_1 + s.ctr_1)) (u32 (s.block_offset_2 + s.ctr_2)) 6 s.seed

def random_6_0 (s : Site K) : Fin 4 → K :=
  (random_6 s).1

def random_6_1 (s : Site K) : Fin 4 → K :=
  (random_6 s).2

def random_5 (s : Site K) : (Fin 4 → K) × (Fin 4 → K) :=
  philox_double2_m256 s.philox_double2 s.time_step (_mm256_add_epi32 (_mm256_add_epi32 (_mm256_set_epi32 (s.block_offset_0) (s.block_offset_0) (s.block_offset_0) (s.block_offset_0) (s.block_offset_0) (s.block_offset_0) (s.block_offset_0) (s.block_offset_0)) (_mm256_set_epi32 (7) (6) (5) (4) (3) (2) (1) (0))) (_mm256_set_epi32 (s.ctr_0) (s.ctr_0) (s.ctr_0) (s.ctr_0) (s.ctr_0) (s.ctr_0) (s.ctr_0) (s.ctr_0))) (u32 (s.block_offset_1 + s.ctr_1)) (u32 (s.block_offset_2 + s.ctr_2)) 5 s.seed

def random_5_0 (s : Site K) : Fin 4 → K :=
  (random_5 s).1

def random_5_1 (s : Site K) : Fin 4 → K :=
  (random_5 s).2

def random_4 (s : Site K) : (Fin 4 → K) × (Fin 4 → K) :=
  philox_double2_m256 s.philox_double2 s.time_step (_mm256_add_epi32 (_mm256_add_epi32 (_mm256_set_epi32 (s.block_offset_0) (s.block_offset_0) (s.block_offset_0) (s.block_offset_0) (s.block_offset_0) (s.block_offset_0) (s.block_offset_0) (s.block_offset_0)) (_mm256_set_epi32 (7) (6) (5) (4) (3) (2) (1) (0))) (_mm256_set_epi32 (s.ctr_0) (s.ctr_0) (s.ctr_0) (s.ctr_0) (s.ctr_0) (s.ctr_0) (s.ctr_0) (s.ctr_0))) (u32 (s.block_offset_1 + s.ctr_1)) (u32 (s.block_offset_2 + s.ctr_2)) 4 s.seed

def random_4_0 (s : Site K) : Fin 4 → K :=
  (random_4 s).1

def random_4_1 (s : Site K) : Fin 4 → K :=
  (random_4 s).2

def random_3 (s : Site K) : (Fin 4 → K) × (Fin 4 → K) :=
  philox_double2_m256 s.philox_double2 s.time_step (_mm256_add_epi32 (_mm256_add_epi32 (_mm256_set_epi32 (s.block_offset_0) (s.block_offset_0) (s.block_offset_0) (s.block_offset_0) (s.block_offset_0) (s.block_offset_0) (s.block_offset_0) (s.block_offset_0)) (_mm256_set_epi32 (7) (6) (5) (4) (3) (2) (1) (0))) (_mm256_set_epi32 (s.ctr_0) (s.ctr_0) (s.ctr_0) (s.ctr_0) (s.ctr_0) (s.ctr_0) (s.ctr_0) (s.ctr_0))) (u32 (s.block_offset_1 + s.ctr_1)) (u32 (s.block_offset_2 + s.ctr_2)) 3 s.seed

def random_3_0 (s : Site K) : Fin 4 → K :=
  (random_3 s).1

def random_3_1 (s : Site K) : Fin 4 → K :=
  (random_3 s).2

def random_2 (s : Site K) : (Fin 4 → K) × (Fin 4 → K) :=
  philox_double2_m256 s.philox_double2 s.time_step (_mm256_add_epi32 (_mm256_add_epi32 (_mm256_set_epi32 (s.block_offset_0) (s.block_offset_0) (s.block_offset_0) (s.block_offset_0) (s.block_offset_0) (s.block_offset_0) (s.block_offset_0) (s.block_offset_0)) (_mm256_set_epi32 (7) (6) (5) (4) (3) (2) (1) (0))) (_mm256_set_epi32 (s.ctr_0) (s.ctr_0) (s.ctr_0) (s.ctr_0) (s.ctr_0) (s.ctr_0) (s.ctr_0) (s.ctr_0))) (u32 (s.block_offset_1 + s.ctr_1)) (u32 (s.block_offset_2 + s.ctr_2)) 2 s.seed

def random_2_0 (s : Site K) : Fin 4 → K :=
  (random_2 s).1

def random_2_1 (s : Site K) : Fin 4 → K :=
  (random_2 s).2

def random_1 (s : Site K) : (Fin 4 → K) × (Fin 4 → K) :=
  philox_double2_m256 s.philox_double2 s.time_step (_mm256_add_epi32 (_mm256_add_epi32 (_mm256_set_epi32 (s.block_offset_0) (s.block_offset_0) (s.block_offset_0) (s.block_offset_0) (s.block_offset_0) (s.block_offset_0) (s.block_offset_0) (s.block_offset_0)) (_mm256_set_epi32 (7) (6) (5) (4) (3) (2) (1) (0))) (_mm256_set_epi32 (s.ctr_0) (s.ctr_0) (s.ctr_0) (s.ctr_0) (s.ctr_0) (s.ctr_0) (s.ctr_0) (s.ctr_0))) (u32 (s.block_offset_1 + s.ctr_1)) (u32 (s.block_offset_2 + s.ctr_2)) 1 s.seed

def random_1_0 (s : Site K) : Fin 4 → K :=
  (random_1 s).1

def random_1_1 (s : Site K) : Fin 4 → K :=
  (random_1 s).2

def random_0 (s : Site K) : (Fin 4 → K) × (Fin 4 → K) :=
  philox_double2_m256 s.philox_double2 s.time_step (_mm256_add_epi32 (_mm256_add_epi32 (_mm256_set_epi32 (s.block_offset_0) (s.block_offset_0) (s.block_offset_0) (s.block_offset_0) (s.block_offset_0) (s.block_offset_0) (s.block_offset_0) (s.block_offset_0)) (_mm256_set_epi32 (7) (6) (5) (4) (3) (2) (1) (0))) (_mm256_set_epi32 (s.ctr_0) (s.ctr_0) (s.ctr_0) (s.ctr_0) (s.ctr_0) (s.ctr_0) (s.ctr_0) (s.ctr_0))) (u32 (s.block_offset_1 + s.ctr_1)) (u32 (s.block_offset_2 + s.ctr_2)) 0 s.seed

def random_0_0 (s : Site K) : Fin 4 → K :=
  (random_0 s).1

def random_0_1 (s : Site K) : Fin 4 → K :=
  (random_0 s).2

def xi_0 (s : Site K) : Fin 4 → K :=
  _mm256_add_pd (xi_259 s) (xi_265 s)

def xi_1 (s : Site K) : Fin 4 → K :=
  _mm256_add_pd (xi_262 s) (xi_272 s)

def xi_2 (s : Site K) : Fin 4 → K :=
  _mm256_add_pd (_mm256_add_pd (xi_0 s) (xi_1 s)) (xi_266 s)

def xi_3 (s : Site K) : Fin 4 → K :=
  _mm256_add_pd (xi_264 s) (xi_270 s)

def xi_4 (s : Site K) : Fin 4 → K :=
  _mm256_add_pd (xi_260 s) (xi_3 s)

def xi_5 (s : Site K) : Fin 4 → K :=
  _mm256_add_pd (xi_269 s) (xi_4 s)

def xi_6 (s : Site K) : Fin 4 → K :=
  _mm256_add_pd (xi_261 s) (xi_279 s)

def xi_7 (s : Site K) : Fin 4 → K :=
  _mm256_add_pd (xi_275 s) (xi_6 s)

def xi_8 (s : Site K) : Fin 4 → K :=
  _mm256_add_pd (xi_268 s) (xi_274 s)

def xi_9 (s : Site K) : Fin 4 → K :=
  _mm256_add_pd (xi_278 s) (xi_280 s)

def xi_10 (s : Site K) : Fin 4 → K :=
  _mm256_add_pd (xi_267 s) (xi_276 s)

def xi_12 (s : Site K) : Fin 4 → K :=
  _mm256_mul_pd (xi_276 s) (_mm256_set_pd (-1) (-1) (-1) (-1))

def xi_13 (s : Site K) : Fin 4 → K :=
  _mm256_mul_pd (xi_268 s) (_mm256_set_pd (-1) (-1) (-1) (-1))

def xi_14 (s : Site K) : Fin 4 → K :=
  _mm256_add_pd (xi_12 s) (xi_13 s)

def xi_15 (s : Site K) : Fin 4 → K :=
  _mm256_mul_pd (xi_275 s) (_mm256_set_pd (-1) (-1) (-1) (-1))

def xi_16 (s : Site K) : Fin 4 → K :=
  _mm256_mul_pd (xi_269 s) (_mm256_set_pd (-1) (-1) (-1) (-1))

def xi_17 (s : Site K) : Fin 4 → K :=
  _mm256_mul_pd (xi_274 s) (_mm256_set_pd (-1) (-1) (-1) (-1))

def xi_18 (s : Site K) : Fin 4 → K :=
  _mm256_add_pd (xi_16 s) (xi_17 s)

def xi_19 (s : Site K) : Fin 4 → K :=
  _mm256_add_pd (xi_15 s) (xi_18 s)

def xi_20 (s : Site K) : Fin 4 → K :=
  _mm256_mul_pd (xi_265 s) (_mm256_set_pd (-1) (-1) (-1) (-1))

def xi_21 (s : Site K) : Fin 4 → K :=
  _mm256_add_pd (xi_20 s) (xi_259 s)

def xi_22 (s : Site K) : Fin 4 → K :=
  _mm256_mul_pd (xi_279 s) (_mm256_set_pd (-1) (-1) (-1) (-1))

def xi_23 (s : Site K) : Fin 4 → K :=
  _mm256_mul_pd (xi_278 s) (_mm256_set_pd (-1) (-1) (-1) (-1))

def xi_24 (s : Site K) : Fin 4 → K :=
  _mm256_mul_pd (xi_280 s) (_mm256_set_pd (-1) (-1) (-1) (-1))

def xi_25 (s : Site K) : Fin 4 → K :=
  _mm256_add_pd (_mm256_add_pd (xi_22 s) (xi_23 s)) (xi_24 s)

def xi_26 (s : Site K) : Fin 4 → K :=
  _mm256_mul_pd (xi_262 s) (_mm256_set_pd (-1) (-1) (-1) (-1))

def xi_27 (s : Site K) : Fin 4 → K :=
  _mm256_add_pd (xi_12 s) (xi_26 s)

def xi_28 (s : Site K) : Fin 4 → K :=
  _mm256_mul_pd (xi_270 s) (_mm256_set_pd (-1) (-1) (-1) (-1))

def xi_29 (s : Site K) : Fin 4 → K :=
  _mm256_mul_pd (xi_267 s) (_mm256_set_pd (-1) (-1) (-1) (-1))

def xi_30 (s : Site K) : Fin 4 → K :=
  _mm256_add_pd (_mm256_add_pd (_mm256_add_pd (xi_24 s) (xi_264 s)) (xi_28 s)) (xi_29 s)

def xi_31 (s : Site K) : Fin 4 → K :=
  _mm256_add_pd (xi_275 s) (xi_276 s)

def xi_32 (s : Site K) : Fin 4 → K :=
  _mm256_add_pd (_mm256_add_pd (xi_269 s) (xi_31 s)) (xi_8 s)

def xi_33 (s : Site K) : Fin 4 → K :=
  _mm256_add_pd (_mm256_add_pd (xi_16 s) (xi_21 s)) (xi_274 s)

def xi_34 (s : Site K) : Fin 4 → K :=
  _mm256_add_pd (xi_26 s) (xi_276 s)

def xi_35 (s : Site K) : Fin 4 → K :=
  _mm256_add_pd (xi_15 s) (xi_272 s)

def xi_36 (s : Site K) : Fin 4 → K :=
  _mm256_add_pd (xi_34 s) (xi_35 s)

def xi_37 (s : Site K) : Fin 4 → K :=
  _mm256_add_pd (_mm256_add_pd (xi_274 s) (xi_279 s)) (xi_9 s)

def xi_38 (s : Site K) : Fin 4 → K :=
  _mm256_add_pd (xi_28 s) (xi_280 s)

def xi_39 (s : Site K) : Fin 4 → K :=
  _mm256_add_pd (_mm256_add_pd (xi_22 s) (xi_264 s)) (xi_38 s)

def xi_57 (s : Site K) : Fin 4 → K :=
  _mm256_mul_pd (xi_271 s) (_mm256_set_pd ((1 / 6)) ((1 / 6)) ((1 / 6)) ((1 / 6)))

def xi_65 (s : Site K) : Fin 4 → K :=
  _mm256_mul_pd (xi_277 s) (_mm256_set_pd ((1 / 6)) ((1 / 6)) ((1 / 6)) ((1 / 6)))

def xi_69 (s : Site K) : Fin 4 → K :=
  _mm256_mul_pd (xi_273 s) (_mm256_set_pd ((1 / 6)) ((1 / 6)) ((1 / 6)) ((1 / 6)))

def xi_72 (s : Site K) : Fin 4 → K :=
  _mm256_mul_pd (xi_271 s) (_mm256_set_pd ((1 / 2)) ((1 / 2)) ((1 / 2)) ((1 / 2)))

def xi_76 (s : Site K) : Fin 4 → K :=
  _mm256_mul_pd (xi_277 s) (_mm256_set_pd ((1 / 12)) ((1 / 12)) ((1 / 12)) ((1 / 12)))

def xi_80 (s : Site K) : Fin 4 → K :=
  _mm256_mul_pd (xi_271 s) (_mm256_set_pd ((1 / 12)) ((1 / 12)) ((1 / 12)) ((1 / 12)))

def xi_90 (s : Site K) : Fin 4 → K :=
  _mm256_mul_pd (xi_273 s) (_mm256_set_pd ((1 / 12)) ((1 / 12)) ((1 / 12)) ((1 / 12)))

def xi_108 (s : Site K) : Fin 4 → K :=
  _mm256_mul_pd (xi_263 s) (_mm256_set_pd (-1) (-1) (-1) (-1))

def xi_109 (s : Site K) : Fin 4 → K :=
  _mm256_add_pd (_mm256_add_pd (_mm256_mul_pd (xi_261 s) (_mm256_set_pd (3) (3) (3) (3))) (_mm256_mul_pd (xi_267 s) (_mm256_set_pd (3) (3) (3) (3)))) (xi_108 s)

def xi_110 (s : Site K) : Fin 4 → K :=
  _mm256_mul_pd (_mm256_add_pd (_mm256_add_pd (_mm256_add_pd (_mm256_add_pd (_mm256_add_pd (_mm256_add_pd (_mm256_mul_pd (xi_260 s) (_mm256_set_pd (3) (3) (3) (3))) (_mm256_mul_pd (xi_264 s) (_mm256_set_pd (-3) (-3) (-3) (-3)))) (_mm256_mul_pd (xi_270 s) (_mm256_set_pd (-3) (-3) (-3) (-3)))) (_mm256_mul_pd (xi_278 s) (_mm256_set_pd (3) (3) (3) (3)))) (_mm256_mul_pd (xi_279 s) (_mm256_set_pd (-3) (-3) (-3) (-3)))) (_mm256_mul_pd (xi_280 s) (_mm256_set_pd (-3) (-3) (-3) (-3)))) (xi_109 s)) (_mm256_set_pd (s.omega_even) (s.omega_even) (s.omega_even) (s.omega_even))

def xi_111 (s : Site K) : Fin 4 → K :=
  _mm256_add_pd (_mm256_add_pd (_mm256_add_pd (_mm256_mul_pd (xi_264 s) (_mm256_set_pd (2) (2) (2) (2))) (_mm256_mul_pd (xi_270 s) (_mm256_set_pd (2) (2) (2) (2)))) (_mm256_mul_pd (xi_279 s) (_mm256_set_pd (2) (2) (2) (2)))) (_mm256_mul_pd (xi_280 s) (_mm256_set_pd (2) (2) (2) (2)))

def xi_112 (s : Site K) : Fin 4 → K :=
  _mm256_add_pd (_mm256_add_pd (_mm256_mul_pd (xi_266 s) (_mm256_set_pd (5) (5) (5) (5))) (_mm256_mul_pd (xi_268 s) (_mm256_set_pd (5) (5) (5) (5)))) (xi_111 s)

def xi_113 (s : Site K) : Fin 4 → K :=
  _mm256_mul_pd (_mm256_add_pd (_mm256_add_pd (_mm256_add_pd (_mm256_add_pd (_mm256_add_pd (_mm256_add_pd (_mm256_add_pd (_mm256_mul_pd (xi_260 s) (_mm256_set_pd (-2) (-2) (-2) (-2))) (_mm256_mul_pd (xi_262 s) (_mm256_set_pd (-5) (-5) (-5) (-5)))) (_mm256_mul_pd (xi_272 s) (_mm256_set_pd (-5) (-5) (-5) (-5)))) (_mm256_mul_pd (xi_275 s) (_mm256_set_pd (-5) (-5) (-5) (-5)))) (_mm256_mul_pd (xi_276 s) (_mm256_set_pd (-5) (-5) (-5) (-5)))) (_mm256_mul_pd (xi_278 s) (_mm256_set_pd (-2) (-2) (-2) (-2)))) (xi_109 s)) (xi_112 s)) (_mm256_set_pd (s.omega_even) (s.omega_even) (s.omega_even) (s.omega_even))

def xi_116 (s : Site K) : Fin 4 → K :=
  _mm256_mul_pd (xi_264 s) (_mm256_set_pd (-1) (-1) (-1) (-1))

def xi_117 (s : Site K) : Fin 4 → K :=
  _mm256_add_pd (xi_116 s) (xi_22 s)

def xi_118 (s : Site K) : Fin 4 → K :=
  _mm256_mul_pd (xi_259 s) (_mm256_set_pd (-1) (-1) (-1) (-1))

def xi_121 (s : Site K) : Fin 4 → K :=
  _mm256_mul_pd (xi_272 s) (_mm256_set_pd (-1) (-1) (-1) (-1))

def xi_122 (s : Site K) : Fin 4 → K :=
  _mm256_add_pd (_mm256_add_pd (xi_121 s) (xi_19 s)) (xi_27 s)

def xi_124 (s : Site K) : Fin 4 → K :=
  _mm256_mul_pd (xi_275 s) (_mm256_set_pd (2) (2) (2) (2))

def xi_125 (s : Site K) : Fin 4 → K :=
  _mm256_mul_pd (xi_272 s) (_mm256_set_pd (2) (2) (2) (2))

def xi_126 (s : Site K) : Fin 4 → K :=
  _mm256_add_pd (_mm256_mul_pd (xi_262 s) (_mm256_set_pd (2) (2) (2) (2))) (_mm256_mul_pd (xi_276 s) (_mm256_set_pd (2) (2) (2) (2)))

def xi_127 (s : Site K) : Fin 4 → K :=
  _mm256_mul_pd (_mm256_add_pd (_mm256_add_pd (_mm256_add_pd (_mm256_add_pd (_mm256_add_pd (_mm256_add_pd (_mm256_add_pd (_mm256_add_pd (_mm256_add_pd (_mm256_add_pd (_mm256_add_pd (_mm256_add_pd (_mm256_mul_pd (xi_259 s) (_mm256_set_pd (-7) (-7) (-7) (-7))) (_mm256_mul_pd (xi_260 s) (_mm256_set_pd (5) (5) (5) (5)))) (_mm256_mul_pd (xi_261 s) (_mm256_set_pd (-4) (-4) (-4) (-4)))) (_mm256_mul_pd (xi_265 s) (_mm256_set_pd (-7) (-7) (-7) (-7)))) (_mm256_mul_pd (xi_267 s) (_mm256_set_pd (-4) (-4) (-4) (-4)))) (_mm256_mul_pd (xi_269 s) (_mm256_set_pd (-7) (-7) (-7) (-7)))) (_mm256_mul_pd (xi_274 s) (_mm256_set_pd (-7) (-7) (-7) (-7)))) (_mm256_mul_pd (xi_278 s) (_mm256_set_pd (5) (5) (5) (5)))) (xi_108 s)) (xi_112 s)) (xi_124 s)) (xi_125 s)) (xi_126 s)) (_mm256_set_pd (s.omega_even) (s.omega_even) (s.omega_even) (s.omega_even))

def xi_128 (s : Site K) : Fin 4 → K :=
  _mm256_add_pd (_mm256_add_pd (_mm256_add_pd (_mm256_add_pd (xi_116 s) (xi_23 s)) (xi_260 s)) (xi_279 s)) (xi_38 s)

def xi_130 (s : Site K) : Fin 4 → K :=
  _mm256_mul_pd (xi_128 s) (_mm256_set_pd (xi_129 s) (xi_129 s) (xi_129 s) (xi_129 s))

def xi_135 (s : Site K) : Fin 4 → K :=
  _mm256_add_pd (random_5_1 s) (_mm256_set_pd (-(1 / 2)) (-(1 / 2)) (-(1 / 2)) (-(1 / 2)))

def xi_140 (s : Site K) : Fin 4 → K :=
  _mm256_mul_pd (xi_269 s) (_mm256_set_pd (2) (2) (2) (2))

def xi_141 (s : Site K) : Fin 4 → K :=
  _mm256_mul_pd (xi_265 s) (_mm256_set_pd (2) (2) (2) (2))

def xi_142 (s : Site K) : Fin 4 → K :=
  _mm256_add_pd (_mm256_mul_pd (xi_259 s) (_mm256_set_pd (-2) (-2) (-2) (-2))) (_mm256_mul_pd (xi_274 s) (_mm256_set_pd (2) (2) (2) (2)))

def xi_143 (s : Site K) : Fin 4 → K :=
  _mm256_add_pd (_mm256_add_pd (_mm256_add_pd (_mm256_add_pd (_mm256_mul_pd (xi_140 s) (_mm256_set_pd (-1) (-1) (-1) (-1))) (xi_141 s)) (xi_142 s)) (xi_25 s)) (xi_4 s)

def xi_145 (s : Site K) : Fin 4 → K :=
  _mm256_mul_pd (xi_143 s) (_mm256_set_pd (xi_144 s) (xi_144 s) (xi_144 s) (xi_144 s))

def xi_146 (s : Site K) : Fin 4 → K :=
  _mm256_add_pd (random_3_0 s) (_mm256_set_pd (-(1 / 2)) (-(1 / 2)) (-(1 / 2)) (-(1 / 2)))

def xi_151 (s : Site K) : Fin 4 → K :=
  _mm256_add_pd (random_0_1 s) (_mm256_set_pd (-(1 / 2)) (-(1 / 2)) (-(1 / 2)) (-(1 / 2)))

def xi_168 (s : Site K) : Fin 4 → K :=
  _mm256_add_pd (_mm256_add_pd (_mm256_add_pd (_mm256_add_pd (xi_121 s) (xi_13 s)) (xi_266 s)) (xi_275 s)) (xi_34 s)

def xi_169 (s : Site K) : Fin 4 → K :=
  _mm256_mul_pd (xi_168 s) (_mm256_set_pd (xi_129 s) (xi_129 s) (xi_129 s) (xi_129 s))

def xi_170 (s : Site K) : Fin 4 → K :=
  _mm256_add_pd (random_4_1 s) (_mm256_set_pd (-(1 / 2)) (-(1 / 2)) (-(1 / 2)) (-(1 / 2)))

def xi_172 (s : Site K) : Fin 4 → K :=
  _mm256_add_pd (_mm256_add_pd (_mm256_add_pd (_mm256_add_pd (_mm256_add_pd (_mm256_add_pd (_mm256_mul_pd (xi_141 s) (_mm256_set_pd (-1) (-1) (-1) (-1))) (xi_14 s)) (xi_140 s)) (xi_142 s)) (xi_262 s)) (xi_266 s)) (xi_35 s)

def xi_173 (s : Site K) : Fin 4 → K :=
  _mm256_mul_pd (xi_172 s) (_mm256_set_pd (xi_144 s) (xi_144 s) (xi_144 s) (xi_144 s))

def xi_174 (s : Site K) : Fin 4 → K :=
  _mm256_add_pd (random_4_0 s) (_mm256_set_pd (-(1 / 2)) (-(1 / 2)) (-(1 / 2)) (-(1 / 2)))

def xi_179 (s : Site K) : Fin 4 → K :=
  _mm256_add_pd (xi_270 s) (xi_280 s)

def xi_180 (s : Site K) : Fin 4 → K :=
  _mm256_add_pd (_mm256_add_pd (_mm256_add_pd (xi_117 s) (xi_179 s)) (xi_261 s)) (xi_29 s)

def xi_181 (s : Site K) : Fin 4 → K :=
  _mm256_mul_pd (xi_180 s) (_mm256_set_pd (xi_129 s) (xi_129 s) (xi_129 s) (xi_129 s))

def xi_184 (s : Site K) : Fin 4 → K :=
  _mm256_add_pd (random_5_0 s) (_mm256_set_pd (-(1 / 2)) (-(1 / 2)) (-(1 / 2)) (-(1 / 2)))

def xi_186 (s : Site K) : Fin 4 → K :=
  _mm256_add_pd (_mm256_add_pd (_mm256_add_pd (_mm256_add_pd (_mm256_mul_pd (xi_124 s) (_mm256_set_pd (-1) (-1) (-1) (-1))) (_mm256_mul_pd (xi_125 s) (_mm256_set_pd (-1) (-1) (-1) (-1)))) (xi_126 s)) (xi_30 s)) (xi_6 s)

def xi_187 (s : Site K) : Fin 4 → K :=
  _mm256_mul_pd (xi_186 s) (_mm256_set_pd (xi_144 s) (xi_144 s) (xi_144 s) (xi_144 s))

def xi_188 (s : Site K) : Fin 4 → K :=
  _mm256_add_pd (random_3_1 s) (_mm256_set_pd (-(1 / 2)) (-(1 / 2)) (-(1 / 2)) (-(1 / 2)))

def xi_195 (s : Site K) : Fin 4 → K :=
  _mm256_mul_pd (xi_127 s) (_mm256_set_pd ((1 / 72)) ((1 / 72)) ((1 / 72)) ((1 / 72)))

def xi_216 (s : Site K) : Fin 4 → K :=
  _mm256_mul_pd (xi_113 s) (_mm256_set_pd (-(1 / 140)) (-(1 / 140)) (-(1 / 140)) (-(1 / 140)))

def xi_218 (s : Site K) : Fin 4 → K :=
  _mm256_mul_pd (xi_110 s) (_mm256_set_pd ((1 / 40)) ((1 / 40)) ((1 / 40)) ((1 / 40)))

def xi_223 (s : Site K) : Fin 4 → K :=
  _mm256_mul_pd (xi_186 s) (_mm256_set_pd (xi_222 s) (xi_222 s) (xi_222 s) (xi_222 s))

def xi_225 (s : Site K) : Fin 4 → K :=
  _mm256_mul_pd (xi_180 s) (_mm256_set_pd (xi_224 s) (xi_224 s) (xi_224 s) (xi_224 s))

def xi_234 (s : Site K) : Fin 4 → K :=
  _mm256_mul_pd (xi_143 s) (_mm256_set_pd (xi_222 s) (xi_222 s) (xi_222 s) (xi_222 s))

def xi_235 (s : Site K) : Fin 4 → K :=
  _mm256_mul_pd (xi_128 s) (_mm256_set_pd (xi_224 s) (xi_224 s) (xi_224 s) (xi_224 s))

def xi_243 (s : Site K) : Fin 4 → K :=
  _mm256_mul_pd (xi_113 s) (_mm256_set_pd ((1 / 56)) ((1 / 56)) ((1 / 56)) ((1 / 56)))

def xi_249 (s : Site K) : Fin 4 → K :=
  _mm256_mul_pd (xi_168 s) (_mm256_set_pd (xi_224 s) (xi_224 s) (xi_224 s) (xi_224 s))

def xi_250 (s : Site K) : Fin 4 → K :=
  _mm256_mul_pd (xi_172 s) (_mm256_set_pd (xi_222 s) (xi_222 s) (xi_222 s) (xi_222 s))

def vel0Term (s : Site K) : Fin 4 → K :=
  xi_2 s

def vel1Term (s : Site K) : Fin 4 → K :=
  xi_5 s

def vel2Term (s : Site K) : Fin 4 → K :=
  xi_7 s

def rho (s : Site K) : Fin 4 → K :=
  _mm256_add_pd (_mm256_add_pd (_mm256_add_pd (_mm256_add_pd (_mm256_add_pd (_mm256_add_pd (vel0Term s) (vel1Term s)) (vel2Term s)) (xi_10 s)) (xi_263 s)) (xi_8 s)) (xi_9 s)

def xi_11 (s : Site K) : Fin 4 → K :=
  _mm256_div_pd (_mm256_set_pd (1) (1) (1) (1)) (rho s)

def xi_101 (s : Site K) : Fin 4 → K :=
  _mm256_mul_pd (rho s) (_mm256_set_pd (s.kT) (s.kT) (s.kT) (s.kT))

def xi_102 (s : Site K) : Fin 4 → K :=
  _mm256_sqrt_pd s.sqrt (_mm256_mul_pd (xi_101 s) (_mm256_set_pd (-((-s.omega_even + 1) * (-s.omega_even + 1)) + 1) (-((-s.omega_even + 1) * (-s.omega_even + 1)) + 1) (-((-s.omega_even + 1) * (-s.omega_even + 1)) + 1) (-((-s.omega_even + 1) * (-s.omega_even + 1)) + 1)))

def xi_103 (s : Site K) : Fin 4 → K :=
  _mm256_mul_pd (_mm256_mul_pd (xi_102 s) (_mm256_add_pd (random_6_0 s) (_mm256_set_pd (-(1 / 2)) (-(1 / 2)) (-(1 / 2)) (-(1 / 2))))) (_mm256_set_pd ((37416573867739413 / 10000000000000000)) ((37416573867739413 / 10000000000000000)) ((37416573867739413 / 10000000000000000)) ((37416573867739413 / 10000000000000000)))

def xi_104 (s : Site K) : Fin 4 → K :=
  _mm256_mul_pd (_mm256_mul_pd (xi_102 s) (_mm256_add_pd (random_7_0 s) (_mm256_set_pd (-(1 / 2)) (-(1 / 2)) (-(1 / 2)) (-(1 / 2))))) (_mm256_set_pd ((54772255750516612 / 10000000000000000)) ((54772255750516612 / 10000000000000000)) ((54772255750516612 / 10000000000000000)) ((54772255750516612 / 10000000000000000)))

def xi_106 (s : Site K) : Fin 4 → K :=
  _mm256_mul_pd (_mm256_mul_pd (_mm256_sqrt_pd s.sqrt (_mm256_mul_pd (xi_101 s) (_mm256_set_pd (-((xi_40 s + 1) * (xi_40 s + 1)) + 1) (-((xi_40 s + 1) * (xi_40 s + 1)) + 1) (-((xi_40 s + 1) * (xi_40 s + 1)) + 1) (-((xi_40 s + 1) * (xi_40 s + 1)) + 1)))) (_mm256_add_pd (random_2_1 s) (_mm256_set_pd (-(1 / 2)) (-(1 / 2)) (-(1 / 2)) (-(1 / 2))))) (_mm256_set_pd (xi_105 s) (xi_105 s) (xi_105 s) (xi_105 s))

def xi_107 (s : Site K) : Fin 4 → K :=
  _mm256_mul_pd (_mm256_mul_pd (xi_102 s) (_mm256_add_pd (random_6_1 s) (_mm256_set_pd (-(1 / 2)) (-(1 / 2)) (-(1 / 2)) (-(1 / 2))))) (_mm256_set_pd ((83666002653407556 / 10000000000000000)) ((83666002653407556 / 10000000000000000)) ((83666002653407556 / 10000000000000000)) ((83666002653407556 / 10000000000000000)))

def xi_136 (s : Site K) : Fin 4 → K :=
  _mm256_sqrt_pd s.sqrt (_mm256_mul_pd (xi_101 s) (_mm256_set_pd (-((-s.omega_odd + 1) * (-s.omega_odd + 1)) + 1) (-((-s.omega_odd + 1) * (-s.omega_odd + 1)) + 1) (-((-s.omega_odd + 1) * (-s.omega_odd + 1)) + 1) (-((-s.omega_odd + 1) * (-s.omega_odd + 1)) + 1)))

def xi_137 (s : Site K) : Fin 4 → K :=
  _mm256_mul_pd (xi_136 s) (_mm256_set_pd ((14142135623730951 / 10000000000000000)) ((14142135623730951 / 10000000000000000)) ((14142135623730951 / 10000000000000000)) ((14142135623730951 / 10000000000000000)))

def xi_138 (s : Site K) : Fin 4 → K :=
  _mm256_mul_pd (xi_137 s) (_mm256_set_pd ((1 / 2)) ((1 / 2)) ((1 / 2)) ((1 / 2)))

def xi_139 (s : Site K) : Fin 4 → K :=
  _mm256_mul_pd (xi_135 s) (xi_138 s)

def xi_147 (s : Site K) : Fin 4 → K :=
  _mm256_mul_pd (xi_136 s) (_mm256_set_pd (xi_105 s) (xi_105 s) (xi_105 s) (xi_105 s))

def xi_148 (s : Site K) : Fin 4 → K :=
  _mm256_mul_pd (xi_147 s) (_mm256_set_pd ((1 / 6)) ((1 / 6)) ((1 / 6)) ((1 / 6)))

def xi_149 (s : Site K) : Fin 4 → K :=
  _mm256_mul_pd (xi_146 s) (xi_148 s)

def xi_150 (s : Site K) : Fin 4 → K :=
  _mm256_add_pd (_mm256_mul_pd (xi_145 s) (_mm256_set_pd (-1) (-1) (-1) (-1))) (_mm256_mul_pd (xi_149 s) (_mm256_set_pd (-1) (-1) (-1) (-1)))

def xi_152 (s : Site K) : Fin 4 → K :=
  _mm256_sqrt_pd s.sqrt (_mm256_mul_pd (xi_101 s) (_mm256_set_pd (-((xi_51 s + 1) * (xi_51 s + 1)) + 1) (-((xi_51 s + 1) * (xi_51 s + 1)) + 1) (-((xi_51 s + 1) * (xi_51 s + 1)) + 1) (-((xi_51 s + 1) * (xi_51 s + 1)) + 1)))

def xi_153 (s : Site K) : Fin 4 → K :=
  _mm256_mul_pd (xi_152 s) (_mm256_set_pd ((1 / 2)) ((1 / 2)) ((1 / 2)) ((1 / 2)))

def xi_154 (s : Site K) : Fin 4 → K :=
  _mm256_mul_pd (xi_151 s) (xi_153 s)

def xi_158 (s : Site K) : Fin 4 → K :=
  _mm256_add_pd (_mm256_mul_pd (xi_103 s) (_mm256_set_pd (-(5 / 42)) (-(5 / 42)) (-(5 / 42)) (-(5 / 42)))) (_mm256_mul_pd (xi_127 s) (_mm256_set_pd (-(5 / 252)) (-(5 / 252)) (-(5 / 252)) (-(5 / 252))))

def xi_160 (s : Site K) : Fin 4 → K :=
  _mm256_mul_pd (_mm256_mul_pd (xi_152 s) (_mm256_add_pd (random_0_0 s) (_mm256_set_pd (-(1 / 2)) (-(1 / 2)) (-(1 / 2)) (-(1 / 2))))) (_mm256_set_pd ((17320508075688772 / 10000000000000000)) ((17320508075688772 / 10000000000000000)) ((17320508075688772 / 10000000000000000)) ((17320508075688772 / 10000000000000000)))

def xi_164 (s : Site K) : Fin 4 → K :=
  _mm256_add_pd (xi_145 s) (xi_149 s)

def xi_171 (s : Site K) : Fin 4 → K :=
  _mm256_mul_pd (xi_138 s) (xi_170 s)

def xi_175 (s : Site K) : Fin 4 → K :=
  _mm256_mul_pd (xi_148 s) (xi_174 s)

def xi_176 (s : Site K) : Fin 4 → K :=
  _mm256_add_pd (xi_173 s) (xi_175 s)

def xi_178 (s : Site K) : Fin 4 → K :=
  _mm256_add_pd (_mm256_mul_pd (xi_173 s) (_mm256_set_pd (-1) (-1) (-1) (-1))) (_mm256_mul_pd (xi_175 s) (_mm256_set_pd (-1) (-1) (-1) (-1)))

def xi_185 (s : Site K) : Fin 4 → K :=
  _mm256_mul_pd (xi_138 s) (xi_184 s)

def xi_189 (s : Site K) : Fin 4 → K :=
  _mm256_mul_pd (xi_148 s) (xi_188 s)

def xi_190 (s : Site K) : Fin 4 → K :=
  _mm256_add_pd (_mm256_mul_pd (xi_187 s) (_mm256_set_pd (-1) (-1) (-1) (-1))) (_mm256_mul_pd (xi_189 s) (_mm256_set_pd (-1) (-1) (-1) (-1)))

def xi_192 (s : Site K) : Fin 4 → K :=
  _mm256_add_pd (xi_187 s) (xi_189 s)

def xi_193 (s : Site K) : Fin 4 → K :=
  _mm256_mul_pd (_mm256_mul_pd (xi_151 s) (xi_152 s)) (_mm256_set_pd ((1 / 4)) ((1 / 4)) ((1 / 4)) ((1 / 4)))

def xi_196 (s : Site K) : Fin 4 → K :=
  _mm256_mul_pd (xi_103 s) (_mm256_set_pd ((1 / 12)) ((1 / 12)) ((1 / 12)) ((1 / 12)))

def xi_206 (s : Site K) : Fin 4 → K :=
  _mm256_mul_pd (xi_153 s) (_mm256_add_pd (random_1_0 s) (_mm256_set_pd (-(1 / 2)) (-(1 / 2)) (-(1 / 2)) (-(1 / 2))))

def xi_215 (s : Site K) : Fin 4 → K :=
  _mm256_mul_pd (xi_153 s) (_mm256_add_pd (random_2_0 s) (_mm256_set_pd (-(1 / 2)) (-(1 / 2)) (-(1 / 2)) (-(1 / 2))))

def xi_219 (s : Site K) : Fin 4 → K :=
  _mm256_mul_pd (xi_107 s) (_mm256_set_pd (-(1 / 70)) (-(1 / 70)) (-(1 / 70)) (-(1 / 70)))

def xi_220 (s : Site K) : Fin 4 → K :=
  _mm256_mul_pd (xi_104 s) (_mm256_set_pd ((1 / 20)) ((1 / 20)) ((1 / 20)) ((1 / 20)))

def xi_226 (s : Site K) : Fin 4 → K :=
  _mm256_mul_pd (xi_147 s) (_mm256_set_pd ((1 / 12)) ((1 / 12)) ((1 / 12)) ((1 / 12)))

def xi_227 (s : Site K) : Fin 4 → K :=
  _mm256_mul_pd (xi_188 s) (xi_226 s)

def xi_228 (s : Site K) : Fin 4 → K :=
  _mm256_mul_pd (xi_137 s) (_mm256_set_pd ((1 / 4)) ((1 / 4)) ((1 / 4)) ((1 / 4)))

def xi_229 (s : Site K) : Fin 4 → K :=
  _mm256_mul_pd (xi_184 s) (xi_228 s)

def xi_231 (s : Site K) : Fin 4 → K :=
  _mm256_add_pd (_mm256_mul_pd (xi_103 s) (_mm256_set_pd (-(1 / 42)) (-(1 / 42)) (-(1 / 42)) (-(1 / 42)))) (_mm256_mul_pd (xi_127 s) (_mm256_set_pd (-(1 / 252)) (-(1 / 252)) (-(1 / 252)) (-(1 / 252))))

def xi_236 (s : Site K) : Fin 4 → K :=
  _mm256_mul_pd (xi_146 s) (xi_226 s)

def xi_237 (s : Site K) : Fin 4 → K :=
  _mm256_mul_pd (xi_135 s) (xi_228 s)

def xi_241 (s : Site K) : Fin 4 → K :=
  _mm256_mul_pd (xi_193 s) (_mm256_set_pd (-1) (-1) (-1) (-1))

def xi_244 (s : Site K) : Fin 4 → K :=
  _mm256_mul_pd (xi_107 s) (_mm256_set_pd ((1 / 28)) ((1 / 28)) ((1 / 28)) ((1 / 28)))

def xi_246 (s : Site K) : Fin 4 → K :=
  _mm256_mul_pd (xi_153 s) (_mm256_add_pd (random_1_1 s) (_mm256_set_pd (-(1 / 2)) (-(1 / 2)) (-(1 / 2)) (-(1 / 2))))

def xi_251 (s : Site K) : Fin 4 → K :=
  _mm256_mul_pd (xi_170 s) (xi_228 s)

def xi_252 (s : Site K) : Fin 4 → K :=
  _mm256_mul_pd (xi_174 s) (xi_226 s)

def u_0 (s : Site K) : Fin 4 → K :=
  _mm256_mul_pd (xi_11 s) (_mm256_add_pd (_mm256_add_pd (vel0Term s) (xi_14 s)) (xi_19 s))

def xi_41 (s : Site K) : Fin 4 → K :=
  _mm256_mul_pd (u_0 s) (xi_277 s)

def xi_42 (s : Site K) : Fin 4 → K :=
  _mm256_mul_pd (xi_41 s) (_mm256_set_pd ((1 / 3)) ((1 / 3)) ((1 / 3)) ((1 / 3)))

def xi_48 (s : Site K) : Fin 4 → K :=
  _mm256_mul_pd (xi_42 s) (_mm256_set_pd (-1) (-1) (-1) (-1))

def xi_114 (s : Site K) : Fin 4 → K :=
  _mm256_mul_pd (rho s) ((_mm256_mul_pd (u_0 s) (u_0 s)))

def xi_165 (s : Site K) : Fin 4 → K :=
  _mm256_mul_pd (rho s) (u_0 s)

def xi_166 (s : Site K) : Fin 4 → K :=
  _mm256_add_pd (_mm256_add_pd (_mm256_mul_pd (vel0Term s) (_mm256_set_pd (-1) (-1) (-1) (-1))) (xi_165 s)) (xi_32 s)

def xi_167 (s : Site K) : Fin 4 → K :=
  _mm256_mul_pd (xi_166 s) (_mm256_set_pd (xi_133 s) (xi_133 s) (xi_133 s) (xi_133 s))

def xi_202 (s : Site K) : Fin 4 → K :=
  _mm256_mul_pd (xi_166 s) (_mm256_set_pd (xi_197 s) (xi_197 s) (xi_197 s) (xi_197 s))

def u_1 (s : Site K) : Fin 4 → K :=
  _mm256_mul_pd (xi_11 s) (_mm256_add_pd (_mm256_add_pd (_mm256_add_pd (vel1Term s) (xi_17 s)) (xi_21 s)) (xi_25 s))

def xi_43 (s : Site K) : Fin 4 → K :=
  _mm256_mul_pd (u_1 s) (xi_271 s)

def xi_44 (s : Site K) : Fin 4 → K :=
  _mm256_mul_pd (xi_43 s) (_mm256_set_pd ((1 / 3)) ((1 / 3)) ((1 / 3)) ((1 / 3)))

def xi_49 (s : Site K) : Fin 4 → K :=
  _mm256_mul_pd (xi_44 s) (_mm256_set_pd (-1) (-1) (-1) (-1))

def xi_71 (s : Site K) : Fin 4 → K :=
  _mm256_mul_pd (u_1 s) (_mm256_set_pd ((1 / 2)) ((1 / 2)) ((1 / 2)) ((1 / 2)))

def xi_74 (s : Site K) : Fin 4 → K :=
  _mm256_mul_pd (_mm256_add_pd (_mm256_mul_pd (u_0 s) (xi_72 s)) (_mm256_mul_pd (xi_277 s) (xi_71 s))) (_mm256_set_pd (xi_73 s) (xi_73 s) (xi_73 s) (xi_73 s))

def xi_75 (s : Site K) : Fin 4 → K :=
  _mm256_mul_pd (xi_74 s) (_mm256_set_pd (-1) (-1) (-1) (-1))

def xi_119 (s : Site K) : Fin 4 → K :=
  _mm256_mul_pd (rho s) ((_mm256_mul_pd (u_1 s) (u_1 s)))

def xi_120 (s : Site K) : Fin 4 → K :=
  _mm256_add_pd (_mm256_add_pd (xi_118 s) (xi_119 s)) (xi_20 s)

def xi_131 (s : Site K) : Fin 4 → K :=
  _mm256_mul_pd (rho s) (u_1 s)

def xi_132 (s : Site K) : Fin 4 → K :=
  _mm256_add_pd (_mm256_add_pd (_mm256_add_pd (_mm256_add_pd (_mm256_mul_pd (vel1Term s) (_mm256_set_pd (-1) (-1) (-1) (-1))) (xi_118 s)) (xi_131 s)) (xi_265 s)) (xi_37 s)

def xi_134 (s : Site K) : Fin 4 → K :=
  _mm256_mul_pd (xi_132 s) (_mm256_set_pd (xi_133 s) (xi_133 s) (xi_133 s) (xi_133 s))

def xi_198 (s : Site K) : Fin 4 → K :=
  _mm256_mul_pd (xi_132 s) (_mm256_set_pd (xi_197 s) (xi_197 s) (xi_197 s) (xi_197 s))

def u_2 (s : Site K) : Fin 4 → K :=
  _mm256_mul_pd (xi_11 s) (_mm256_add_pd (_mm256_add_pd (_mm256_add_pd (vel2Term s) (xi_27 s)) (xi_272 s)) (xi_30 s))

def xi_45 (s : Site K) : Fin 4 → K :=
  _mm256_mul_pd (u_2 s) (xi_273 s)

def xi_46 (s : Site K) : Fin 4 → K :=
  _mm256_mul_pd (xi_45 s) (_mm256_set_pd ((1 / 3)) ((1 / 3)) ((1 / 3)) ((1 / 3)))

def xi_47 (s : Site K) : Fin 4 → K :=
  _mm256_mul_pd (_mm256_add_pd (_mm256_add_pd (xi_42 s) (xi_44 s)) (xi_46 s)) (_mm256_set_pd (xi_40 s + 2) (xi_40 s + 2) (xi_40 s + 2) (xi_40 s + 2))

def xi_50 (s : Site K) : Fin 4 → K :=
  _mm256_add_pd (_mm256_add_pd (_mm256_mul_pd (xi_45 s) (_mm256_set_pd ((2 / 3)) ((2 / 3)) ((2 / 3)) ((2 / 3)))) (xi_48 s)) (xi_49 s)

def xi_54 (s : Site K) : Fin 4 → K :=
  _mm256_mul_pd (xi_46 s) (_mm256_set_pd (-1) (-1) (-1) (-1))

def xi_55 (s : Site K) : Fin 4 → K :=
  _mm256_add_pd (_mm256_add_pd (_mm256_mul_pd (xi_43 s) (_mm256_set_pd ((2 / 3)) ((2 / 3)) ((2 / 3)) ((2 / 3)))) (xi_48 s)) (xi_54 s)

def xi_56 (s : Site K) : Fin 4 → K :=
  _mm256_add_pd (_mm256_add_pd (_mm256_mul_pd (xi_41 s) (_mm256_set_pd ((2 / 3)) ((2 / 3)) ((2 / 3)) ((2 / 3)))) (xi_49 s)) (xi_54 s)

def xi_59 (s : Site K) : Fin 4 → K :=
  _mm256_mul_pd (xi_50 s) (_mm256_set_pd (xi_58 s) (xi_58 s) (xi_58 s) (xi_58 s))

def xi_60 (s : Site K) : Fin 4 → K :=
  _mm256_mul_pd (xi_59 s) (_mm256_set_pd (-1) (-1) (-1) (-1))

def xi_61 (s : Site K) : Fin 4 → K :=
  _mm256_mul_pd (xi_56 s) (_mm256_set_pd (xi_58 s) (xi_58 s) (xi_58 s) (xi_58 s))

def xi_62 (s : Site K) : Fin 4 → K :=
  _mm256_mul_pd (xi_61 s) (_mm256_set_pd (-1) (-1) (-1) (-1))

def xi_64 (s : Site K) : Fin 4 → K :=
  _mm256_add_pd (_mm256_add_pd (_mm256_mul_pd (xi_55 s) (_mm256_set_pd (xi_63 s) (xi_63 s) (xi_63 s) (xi_63 s))) (xi_60 s)) (xi_62 s)

def xi_66 (s : Site K) : Fin 4 → K :=
  _mm256_mul_pd (xi_55 s) (_mm256_set_pd (xi_58 s) (xi_58 s) (xi_58 s) (xi_58 s))

def xi_67 (s : Site K) : Fin 4 → K :=
  _mm256_mul_pd (xi_66 s) (_mm256_set_pd (-1) (-1) (-1) (-1))

def xi_68 (s : Site K) : Fin 4 → K :=
  _mm256_add_pd (_mm256_add_pd (_mm256_mul_pd (xi_56 s) (_mm256_set_pd (xi_63 s) (xi_63 s) (xi_63 s) (xi_63 s))) (xi_60 s)) (xi_67 s)

def xi_70 (s : Site K) : Fin 4 → K :=
  _mm256_add_pd (_mm256_add_pd (_mm256_mul_pd (xi_50 s) (_mm256_set_pd (xi_63 s) (xi_63 s) (xi_63 s) (xi_63 s))) (xi_62 s)) (xi_67 s)

def xi_77 (s : Site K) : Fin 4 → K :=
  _mm256_add_pd (_mm256_mul_pd (xi_76 s) (_mm256_set_pd (-1) (-1) (-1) (-1))) (xi_61 s)

def xi_79 (s : Site K) : Fin 4 → K :=
  _mm256_mul_pd (_mm256_mul_pd (xi_50 s) (_mm256_set_pd (-1) (-1) (-1) (-1))) (_mm256_set_pd (xi_78 s) (xi_78 s) (xi_78 s) (xi_78 s))

def xi_81 (s : Site K) : Fin 4 → K :=
  _mm256_mul_pd (xi_47 s) (_mm256_set_pd ((1 / 8)) ((1 / 8)) ((1 / 8)) ((1 / 8)))

def xi_82 (s : Site K) : Fin 4 → K :=
  _mm256_add_pd (xi_66 s) (xi_81 s)

def xi_83 (s : Site K) : Fin 4 → K :=
  _mm256_add_pd (xi_80 s) (xi_82 s)

def xi_84 (s : Site K) : Fin 4 → K :=
  _mm256_add_pd (xi_79 s) (xi_83 s)

def xi_85 (s : Site K) : Fin 4 → K :=
  _mm256_add_pd (xi_61 s) (xi_76 s)

def xi_86 (s : Site K) : Fin 4 → K :=
  _mm256_add_pd (_mm256_mul_pd (xi_80 s) (_mm256_set_pd (-1) (-1) (-1) (-1))) (xi_82 s)

def xi_87 (s : Site K) : Fin 4 → K :=
  _mm256_add_pd (xi_79 s) (xi_86 s)

def xi_88 (s : Site K) : Fin 4 → K :=
  _mm256_mul_pd (_mm256_add_pd (_mm256_mul_pd (u_2 s) (xi_72 s)) (_mm256_mul_pd (xi_273 s) (xi_71 s))) (_mm256_set_pd (xi_73 s) (xi_73 s) (xi_73 s) (xi_73 s))

def xi_89 (s : Site K) : Fin 4 → K :=
  _mm256_mul_pd (_mm256_mul_pd (xi_56 s) (_mm256_set_pd (-1) (-1) (-1) (-1))) (_mm256_set_pd (xi_78 s) (xi_78 s) (xi_78 s) (xi_78 s))

def xi_91 (s : Site K) : Fin 4 → K :=
  _mm256_add_pd (xi_59 s) (xi_90 s)

def xi_92 (s : Site K) : Fin 4 → K :=
  _mm256_add_pd (xi_89 s) (xi_91 s)

def xi_93 (s : Site K) : Fin 4 → K :=
  _mm256_mul_pd (xi_88 s) (_mm256_set_pd (-1) (-1) (-1) (-1))

def xi_94 (s : Site K) : Fin 4 → K :=
  _mm256_mul_pd (_mm256_add_pd (_mm256_mul_pd (_mm256_mul_pd (u_0 s) (xi_273 s)) (_mm256_set_pd ((1 / 2)) ((1 / 2)) ((1 / 2)) ((1 / 2)))) (_mm256_mul_pd (_mm256_mul_pd (u_2 s) (xi_277 s)) (_mm256_set_pd ((1 / 2)) ((1 / 2)) ((1 / 2)) ((1 / 2))))) (_mm256_set_pd (xi_73 s) (xi_73 s) (xi_73 s) (xi_73 s))

def xi_95 (s : Site K) : Fin 4 → K :=
  _mm256_mul_pd (xi_94 s) (_mm256_set_pd (-1) (-1) (-1) (-1))

def xi_96 (s : Site K) : Fin 4 → K :=
  _mm256_mul_pd (_mm256_mul_pd (xi_55 s) (_mm256_set_pd (-1) (-1) (-1) (-1))) (_mm256_set_pd (xi_78 s) (xi_78 s) (xi_78 s) (xi_78 s))

def xi_97 (s : Site K) : Fin 4 → K :=
  _mm256_add_pd (_mm256_add_pd (xi_81 s) (xi_91 s)) (xi_96 s)

def xi_98 (s : Site K) : Fin 4 → K :=
  _mm256_add_pd (_mm256_mul_pd (xi_90 s) (_mm256_set_pd (-1) (-1) (-1) (-1))) (xi_59 s)

def xi_99 (s : Site K) : Fin 4 → K :=
  _mm256_add_pd (xi_89 s) (xi_98 s)

def xi_100 (s : Site K) : Fin 4 → K :=
  _mm256_add_pd (_mm256_add_pd (xi_81 s) (xi_96 s)) (xi_98 s)

def xi_115 (s : Site K) : Fin 4 → K :=
  _mm256_mul_pd (rho s) ((_mm256_mul_pd (u_2 s) (u_2 s)))

def xi_123 (s : Site K) : Fin 4 → K :=
  _mm256_mul_pd (_mm256_add_pd (_mm256_add_pd (_mm256_add_pd (_mm256_add_pd (_mm256_add_pd (_mm256_add_pd (_mm256_add_pd (xi_114 s) (xi_115 s)) (xi_117 s)) (xi_120 s)) (xi_122 s)) (xi_24 s)) (xi_263 s)) (xi_28 s)) (_mm256_set_pd (s.omega_bulk) (s.omega_bulk) (s.omega_bulk) (s.omega_bulk))

def xi_155 (s : Site K) : Fin 4 → K :=
  _mm256_add_pd (_mm256_add_pd (_mm256_mul_pd (xi_115 s) (_mm256_set_pd (-1) (-1) (-1) (-1))) (xi_261 s)) (xi_267 s)

def xi_156 (s : Site K) : Fin 4 → K :=
  _mm256_mul_pd (_mm256_add_pd (_mm256_add_pd (_mm256_add_pd (_mm256_add_pd (_mm256_add_pd (_mm256_add_pd (_mm256_mul_pd (xi_260 s) (_mm256_set_pd (-1) (-1) (-1) (-1))) (xi_1 s)) (xi_120 s)) (xi_155 s)) (xi_18 s)) (xi_23 s)) (xi_31 s)) (_mm256_set_pd (s.omega_shear) (s.omega_shear) (s.omega_shear) (s.omega_shear))

def xi_157 (s : Site K) : Fin 4 → K :=
  _mm256_mul_pd (xi_156 s) (_mm256_set_pd ((1 / 8)) ((1 / 8)) ((1 / 8)) ((1 / 8)))

def xi_159 (s : Site K) : Fin 4 → K :=
  _mm256_mul_pd (_mm256_add_pd (_mm256_add_pd (_mm256_add_pd (_mm256_add_pd (_mm256_add_pd (_mm256_add_pd (_mm256_add_pd (_mm256_add_pd (_mm256_add_pd (_mm256_add_pd (_mm256_mul_pd (xi_114 s) (_mm256_set_pd (2) (2) (2) (2))) (_mm256_mul_pd (xi_119 s) (_mm256_set_pd (-1) (-1) (-1) (-1)))) (_mm256_mul_pd (xi_266 s) (_mm256_set_pd (-2) (-2) (-2) (-2)))) (_mm256_mul_pd (xi_268 s) (_mm256_set_pd (-2) (-2) (-2) (-2)))) (xi_111 s)) (xi_118 s)) (xi_122 s)) (xi_155 s)) (xi_20 s)) (xi_260 s)) (xi_278 s)) (_mm256_set_pd (s.omega_shear) (s.omega_shear) (s.omega_shear) (s.omega_shear))

def xi_161 (s : Site K) : Fin 4 → K :=
  _mm256_add_pd (_mm256_mul_pd (xi_159 s) (_mm256_set_pd (-(1 / 24)) (-(1 / 24)) (-(1 / 24)) (-(1 / 24)))) (_mm256_mul_pd (xi_160 s) (_mm256_set_pd (-(1 / 6)) (-(1 / 6)) (-(1 / 6)) (-(1 / 6))))

def xi_162 (s : Site K) : Fin 4 → K :=
  _mm256_add_pd (_mm256_add_pd (_mm256_mul_pd (xi_104 s) (_mm256_set_pd (-(1 / 10)) (-(1 / 10)) (-(1 / 10)) (-(1 / 10)))) (_mm256_mul_pd (xi_110 s) (_mm256_set_pd (-(1 / 20)) (-(1 / 20)) (-(1 / 20)) (-(1 / 20))))) (xi_161 s)

def xi_163 (s : Site K) : Fin 4 → K :=
  _mm256_add_pd (_mm256_add_pd (_mm256_add_pd (_mm256_add_pd (_mm256_add_pd (_mm256_mul_pd (xi_107 s) (_mm256_set_pd ((1 / 35)) ((1 / 35)) ((1 / 35)) ((1 / 35)))) (_mm256_mul_pd (xi_113 s) (_mm256_set_pd ((1 / 70)) ((1 / 70)) ((1 / 70)) ((1 / 70))))) (xi_154 s)) (xi_157 s)) (xi_158 s)) (xi_162 s)

def xi_177 (s : Site K) : Fin 4 → K :=
  _mm256_add_pd (_mm256_add_pd (_mm256_add_pd (_mm256_add_pd (_mm256_mul_pd (xi_107 s) (_mm256_set_pd (-(1 / 14)) (-(1 / 14)) (-(1 / 14)) (-(1 / 14)))) (_mm256_mul_pd (xi_113 s) (_mm256_set_pd (-(1 / 28)) (-(1 / 28)) (-(1 / 28)) (-(1 / 28))))) (_mm256_mul_pd (xi_159 s) (_mm256_set_pd ((1 / 12)) ((1 / 12)) ((1 / 12)) ((1 / 12))))) (_mm256_mul_pd (xi_160 s) (_mm256_set_pd ((1 / 3)) ((1 / 3)) ((1 / 3)) ((1 / 3))))) (xi_158 s)

def xi_182 (s : Site K) : Fin 4 → K :=
  _mm256_add_pd (_mm256_add_pd (_mm256_add_pd (_mm256_add_pd (_mm256_add_pd (_mm256_add_pd (_mm256_mul_pd (rho s) (u_2 s)) (_mm256_mul_pd (vel2Term s) (_mm256_set_pd (-1) (-1) (-1) (-1)))) (xi_10 s)) (xi_116 s)) (xi_121 s)) (xi_179 s)) (xi_262 s)

def xi_183 (s : Site K) : Fin 4 → K :=
  _mm256_mul_pd (xi_182 s) (_mm256_set_pd (xi_133 s) (xi_133 s) (xi_133 s) (xi_133 s))

def xi_191 (s : Site K) : Fin 4 → K :=
  _mm256_add_pd (_mm256_add_pd (_mm256_add_pd (_mm256_add_pd (_mm256_add_pd (_mm256_add_pd (_mm256_mul_pd (xi_103 s) (_mm256_set_pd ((2 / 21)) ((2 / 21)) ((2 / 21)) ((2 / 21)))) (_mm256_mul_pd (xi_107 s) (_mm256_set_pd (-(3 / 70)) (-(3 / 70)) (-(3 / 70)) (-(3 / 70))))) (_mm256_mul_pd (xi_113 s) (_mm256_set_pd (-(3 / 140)) (-(3 / 140)) (-(3 / 140)) (-(3 / 140))))) (_mm256_mul_pd (xi_127 s) (_mm256_set_pd ((1 / 63)) ((1 / 63)) ((1 / 63)) ((1 / 63))))) (_mm256_mul_pd (xi_154 s) (_mm256_set_pd (-1) (-1) (-1) (-1)))) (_mm256_mul_pd (xi_157 s) (_mm256_set_pd (-1) (-1) (-1) (-1)))) (xi_162 s)

def xi_194 (s : Site K) : Fin 4 → K :=
  _mm256_mul_pd (xi_156 s) (_mm256_set_pd ((1 / 16)) ((1 / 16)) ((1 / 16)) ((1 / 16)))

def xi_199 (s : Site K) : Fin 4 → K :=
  _mm256_add_pd (_mm256_mul_pd (xi_106 s) (_mm256_set_pd ((1 / 12)) ((1 / 12)) ((1 / 12)) ((1 / 12)))) (_mm256_mul_pd (xi_123 s) (_mm256_set_pd ((1 / 24)) ((1 / 24)) ((1 / 24)) ((1 / 24))))

def xi_200 (s : Site K) : Fin 4 → K :=
  _mm256_add_pd (xi_198 s) (xi_199 s)

def xi_201 (s : Site K) : Fin 4 → K :=
  _mm256_add_pd (_mm256_add_pd (_mm256_add_pd (_mm256_add_pd (_mm256_add_pd (xi_164 s) (xi_193 s)) (xi_194 s)) (xi_195 s)) (xi_196 s)) (xi_200 s)

def xi_203 (s : Site K) : Fin 4 → K :=
  _mm256_add_pd (_mm256_mul_pd (xi_159 s) (_mm256_set_pd ((1 / 48)) ((1 / 48)) ((1 / 48)) ((1 / 48)))) (_mm256_mul_pd (xi_160 s) (_mm256_set_pd ((1 / 12)) ((1 / 12)) ((1 / 12)) ((1 / 12))))

def xi_204 (s : Site K) : Fin 4 → K :=
  _mm256_add_pd (_mm256_mul_pd (xi_202 s) (_mm256_set_pd (-1) (-1) (-1) (-1))) (xi_203 s)

def xi_205 (s : Site K) : Fin 4 → K :=
  _mm256_add_pd (xi_178 s) (xi_204 s)

def xi_211 (s : Site K) : Fin 4 → K :=
  _mm256_add_pd (xi_202 s) (xi_203 s)

def xi_212 (s : Site K) : Fin 4 → K :=
  _mm256_add_pd (xi_176 s) (xi_211 s)

def xi_213 (s : Site K) : Fin 4 → K :=
  _mm256_add_pd (_mm256_mul_pd (xi_198 s) (_mm256_set_pd (-1) (-1) (-1) (-1))) (xi_199 s)

def xi_214 (s : Site K) : Fin 4 → K :=
  _mm256_add_pd (_mm256_add_pd (_mm256_add_pd (_mm256_add_pd (_mm256_add_pd (xi_150 s) (xi_193 s)) (xi_194 s)) (xi_195 s)) (xi_196 s)) (xi_213 s)

def xi_230 (s : Site K) : Fin 4 → K :=
  _mm256_mul_pd (xi_182 s) (_mm256_set_pd (xi_197 s) (xi_197 s) (xi_197 s) (xi_197 s))

def xi_232 (s : Site K) : Fin 4 → K :=
  _mm256_add_pd (xi_230 s) (xi_231 s)

def xi_233 (s : Site K) : Fin 4 → K :=
  _mm256_add_pd (_mm256_add_pd (_mm256_add_pd (_mm256_add_pd (_mm256_mul_pd (xi_223 s) (_mm256_set_pd (-1) (-1) (-1) (-1))) (_mm256_mul_pd (xi_227 s) (_mm256_set_pd (-1) (-1) (-1) (-1)))) (xi_225 s)) (xi_229 s)) (xi_232 s)

def xi_238 (s : Site K) : Fin 4 → K :=
  _mm256_add_pd (_mm256_add_pd (_mm256_add_pd (_mm256_add_pd (_mm256_mul_pd (xi_234 s) (_mm256_set_pd (-1) (-1) (-1) (-1))) (_mm256_mul_pd (xi_236 s) (_mm256_set_pd (-1) (-1) (-1) (-1)))) (xi_200 s)) (xi_235 s)) (xi_237 s)

def xi_239 (s : Site K) : Fin 4 → K :=
  _mm256_add_pd (_mm256_add_pd (_mm256_add_pd (_mm256_add_pd (_mm256_mul_pd (xi_235 s) (_mm256_set_pd (-1) (-1) (-1) (-1))) (_mm256_mul_pd (xi_237 s) (_mm256_set_pd (-1) (-1) (-1) (-1)))) (xi_213 s)) (xi_234 s)) (xi_236 s)

def xi_242 (s : Site K) : Fin 4 → K :=
  _mm256_mul_pd (xi_194 s) (_mm256_set_pd (-1) (-1) (-1) (-1))

def xi_245 (s : Site K) : Fin 4 → K :=
  _mm256_add_pd (_mm256_add_pd (_mm256_add_pd (_mm256_add_pd (_mm256_add_pd (_mm256_add_pd (xi_192 s) (xi_199 s)) (xi_232 s)) (xi_241 s)) (xi_242 s)) (xi_243 s)) (xi_244 s)

def xi_253 (s : Site K) : Fin 4 → K :=
  _mm256_add_pd (_mm256_add_pd (_mm256_add_pd (_mm256_add_pd (_mm256_mul_pd (xi_249 s) (_mm256_set_pd (-1) (-1) (-1) (-1))) (_mm256_mul_pd (xi_251 s) (_mm256_set_pd (-1) (-1) (-1) (-1)))) (xi_204 s)) (xi_250 s)) (xi_252 s)

def xi_255 (s : Site K) : Fin 4 → K :=
  _mm256_add_pd (_mm256_add_pd (_mm256_add_pd (_mm256_add_pd (_mm256_mul_pd (xi_250 s) (_mm256_set_pd (-1) (-1) (-1) (-1))) (_mm256_mul_pd (xi_252 s) (_mm256_set_pd (-1) (-1) (-1) (-1)))) (xi_211 s)) (xi_249 s)) (xi_251 s)

def xi_256 (s : Site K) : Fin 4 → K :=
  _mm256_add_pd (_mm256_mul_pd (xi_230 s) (_mm256_set_pd (-1) (-1) (-1) (-1))) (xi_231 s)

def xi_257 (s : Site K) : Fin 4 → K :=
  _mm256_add_pd (_mm256_add_pd (_mm256_add_pd (_mm256_add_pd (_mm256_mul_pd (xi_225 s) (_mm256_set_pd (-1) (-1) (-1) (-1))) (_mm256_mul_pd (xi_229 s) (_mm256_set_pd (-1) (-1) (-1) (-1)))) (xi_223 s)) (xi_227 s)) (xi_256 s)

def xi_258 (s : Site K) : Fin 4 → K :=
  _mm256_add_pd (_mm256_add_pd (_mm256_add_pd (_mm256_add_pd (_mm256_add_pd (_mm256_add_pd (xi_190 s) (xi_199 s)) (xi_241 s)) (xi_242 s)) (xi_243 s)) (xi_244 s)) (xi_256 s)

def p_0 (s : Site K) : Fin 4 → K :=
  _mm256_add_pd (xi_2 s) (xi_32 s)

def p_1 (s : Site K) : Fin 4 → K :=
  xi_33 s

def xi_208 (s : Site K) : Fin 4 → K :=
  _mm256_mul_pd (_mm256_add_pd (_mm256_mul_pd (p_1 s) (_mm256_set_pd (-1) (-1) (-1) (-1))) (_mm256_mul_pd (u_0 s) (xi_131 s))) (_mm256_set_pd (xi_207 s) (xi_207 s) (xi_207 s) (xi_207 s))

def xi_209 (s : Site K) : Fin 4 → K :=
  _mm256_add_pd (_mm256_mul_pd (xi_206 s) (_mm256_set_pd (-1) (-1) (-1) (-1))) (_mm256_mul_pd (xi_208 s) (_mm256_set_pd (-1) (-1) (-1) (-1)))

def xi_210 (s : Site K) : Fin 4 → K :=
  _mm256_add_pd (xi_206 s) (xi_208 s)

def p_2 (s : Site K) : Fin 4 → K :=
  xi_36 s

def xi_247 (s : Site K) : Fin 4 → K :=
  _mm256_mul_pd (_mm256_add_pd (_mm256_mul_pd (p_2 s) (_mm256_set_pd (-1) (-1) (-1) (-1))) (_mm256_mul_pd (u_2 s) (xi_165 s))) (_mm256_set_pd (xi_207 s) (xi_207 s) (xi_207 s) (xi_207 s))

def xi_248 (s : Site K) : Fin 4 → K :=
  _mm256_add_pd (_mm256_mul_pd (xi_246 s) (_mm256_set_pd (-1) (-1) (-1) (-1))) (_mm256_mul_pd (xi_247 s) (_mm256_set_pd (-1) (-1) (-1) (-1)))

def xi_254 (s : Site K) : Fin 4 → K :=
  _mm256_add_pd (xi_246 s) (xi_247 s)

def p_3 (s : Site K) : Fin 4 → K :=
  xi_33 s

def p_4 (s : Site K) : Fin 4 → K :=
  _mm256_add_pd (_mm256_add_pd (xi_0 s) (xi_37 s)) (xi_5 s)

def p_5 (s : Site K) : Fin 4 → K :=
  xi_39 s

def xi_217 (s : Site K) : Fin 4 → K :=
  _mm256_mul_pd (_mm256_add_pd (_mm256_mul_pd (p_5 s) (_mm256_set_pd (-1) (-1) (-1) (-1))) (_mm256_mul_pd (u_2 s) (xi_131 s))) (_mm256_set_pd (xi_207 s) (xi_207 s) (xi_207 s) (xi_207 s))

def xi_221 (s : Site K) : Fin 4 → K :=
  _mm256_add_pd (_mm256_add_pd (_mm256_add_pd (_mm256_add_pd (_mm256_add_pd (_mm256_add_pd (xi_161 s) (xi_215 s)) (xi_216 s)) (xi_217 s)) (xi_218 s)) (xi_219 s)) (xi_220 s)

def xi_240 (s : Site K) : Fin 4 → K :=
  _mm256_add_pd (_mm256_add_pd (_mm256_add_pd (_mm256_add_pd (_mm256_add_pd (_mm256_add_pd (_mm256_mul_pd (xi_215 s) (_mm256_set_pd (-1) (-1) (-1) (-1))) (_mm256_mul_pd (xi_217 s) (_mm256_set_pd (-1) (-1) (-1) (-1)))) (xi_161 s)) (xi_216 s)) (xi_218 s)) (xi_219 s)) (xi_220 s)

def p_6 (s : Site K) : Fin 4 → K :=
  xi_36 s

def p_7 (s : Site K) : Fin 4 → K :=
  xi_39 s

def p_8 (s : Site K) : Fin 4 → K :=
  _mm256_add_pd (_mm256_add_pd (_mm256_add_pd (_mm256_add_pd (xi_1 s) (xi_10 s)) (xi_280 s)) (xi_3 s)) (xi_7 s)

def forceTerm_0 (s : Site K) : Fin 4 → K :=
  _mm256_add_pd (_mm256_add_pd (_mm256_add_pd (_mm256_mul_pd (xi_47 s) (_mm256_set_pd (-(3 / 2)) (-(3 / 2)) (-(3 / 2)) (-(3 / 2)))) (_mm256_mul_pd (_mm256_mul_pd (xi_50 s) (_mm256_set_pd (-1) (-1) (-1) (-1))) (_mm256_set_pd (xi_53 s) (xi_53 s) (xi_53 s) (xi_53 s)))) (_mm256_mul_pd (_mm256_mul_pd (xi_55 s) (_mm256_set_pd (-1) (-1) (-1) (-1))) (_mm256_set_pd (xi_53 s) (xi_53 s) (xi_53 s) (xi_53 s)))) (_mm256_mul_pd (_mm256_mul_pd (xi_56 s) (_mm256_set_pd (-1) (-1) (-1) (-1))) (_mm256_set_pd (xi_53 s) (xi_53 s) (xi_53 s) (xi_53 s)))

def forceTerm_1 (s : Site K) : Fin 4 → K :=
  _mm256_add_pd (xi_57 s) (xi_64 s)

def forceTerm_2 (s : Site K) : Fin 4 → K :=
  _mm256_add_pd (_mm256_mul_pd (xi_57 s) (_mm256_set_pd (-1) (-1) (-1) (-1))) (xi_64 s)

def forceTerm_3 (s : Site K) : Fin 4 → K :=
  _mm256_add_pd (_mm256_mul_pd (xi_65 s) (_mm256_set_pd (-1) (-1) (-1) (-1))) (xi_68 s)

def forceTerm_4 (s : Site K) : Fin 4 → K :=
  _mm256_add_pd (xi_65 s) (xi_68 s)

def forceTerm_5 (s : Site K) : Fin 4 → K :=
  _mm256_add_pd (xi_69 s) (xi_70 s)

def forceTerm_6 (s : Site K) : Fin 4 → K :=
  _mm256_add_pd (_mm256_mul_pd (xi_69 s) (_mm256_set_pd (-1) (-1) (-1) (-1))) (xi_70 s)

def forceTerm_7 (s : Site K) : Fin 4 → K :=
  _mm256_add_pd (_mm256_add_pd (xi_75 s) (xi_77 s)) (xi_84 s)

def forceTerm_8 (s : Site K) : Fin 4 → K :=
  _mm256_add_pd (_mm256_add_pd (xi_74 s) (xi_84 s)) (xi_85 s)

def forceTerm_9 (s : Site K) : Fin 4 → K :=
  _mm256_add_pd (_mm256_add_pd (xi_74 s) (xi_77 s)) (xi_87 s)

def forceTerm_10 (s : Site K) : Fin 4 → K :=
  _mm256_add_pd (_mm256_add_pd (xi_75 s) (xi_85 s)) (xi_87 s)

def forceTerm_11 (s : Site K) : Fin 4 → K :=
  _mm256_add_pd (_mm256_add_pd (xi_83 s) (xi_88 s)) (xi_92 s)

def forceTerm_12 (s : Site K) : Fin 4 → K :=
  _mm256_add_pd (_mm256_add_pd (xi_86 s) (xi_92 s)) (xi_93 s)

def forceTerm_13 (s : Site K) : Fin 4 → K :=
  _mm256_add_pd (_mm256_add_pd (xi_77 s) (xi_95 s)) (xi_97 s)

def forceTerm_14 (s : Site K) : Fin 4 → K :=
  _mm256_add_pd (_mm256_add_pd (xi_85 s) (xi_94 s)) (xi_97 s)

def forceTerm_15 (s : Site K) : Fin 4 → K :=
  _mm256_add_pd (_mm256_add_pd (xi_83 s) (xi_93 s)) (xi_99 s)

def forceTerm_16 (s : Site K) : Fin 4 → K :=
  _mm256_add_pd (_mm256_add_pd (xi_86 s) (xi_88 s)) (xi_99 s)

def forceTerm_17 (s : Site K) : Fin 4 → K :=
  _mm256_add_pd (_mm256_add_pd (xi_100 s) (xi_77 s)) (xi_94 s)

def forceTerm_18 (s : Site K) : Fin 4 → K :=
  _mm256_add_pd (_mm256_add_pd (xi_100 s) (xi_85 s)) (xi_95 s)

def store_0 (s : Site K) : Fin 4 → K :=
  _mm256_add_pd (_mm256_add_pd (_mm256_add_pd (_mm256_add_pd (_mm256_add_pd (_mm256_add_pd (_mm256_add_pd (_mm256_add_pd (_mm256_add_pd (_mm256_mul_pd (xi_103 s) (_mm256_set_pd ((1 / 7)) ((1 / 7)) ((1 / 7)) ((1 / 7)))) (_mm256_mul_pd (xi_104 s) (_mm256_set_pd ((1 / 5)) ((1 / 5)) ((1 / 5)) ((1 / 5))))) (_mm256_mul_pd (xi_106 s) (_mm256_set_pd (-1) (-1) (-1) (-1)))) (_mm256_mul_pd (xi_107 s) (_mm256_set_pd ((3 / 35)) ((3 / 35)) ((3 / 35)) ((3 / 35))))) (_mm256_mul_pd (xi_110 s) (_mm256_set_pd ((1 / 10)) ((1 / 10)) ((1 / 10)) ((1 / 10))))) (_mm256_mul_pd (xi_113 s) (_mm256_set_pd ((3 / 70)) ((3 / 70)) ((3 / 70)) ((3 / 70))))) (_mm256_mul_pd (xi_123 s) (_mm256_set_pd (-(1 / 2)) (-(1 / 2)) (-(1 / 2)) (-(1 / 2))))) (_mm256_mul_pd (xi_127 s) (_mm256_set_pd ((1 / 42)) ((1 / 42)) ((1 / 42)) ((1 / 42))))) (forceTerm_0 s)) (xi_263 s)

def store_1 (s : Site K) : Fin 4 → K :=
  _mm256_add_pd (_mm256_add_pd (_mm256_add_pd (_mm256_add_pd (_mm256_add_pd (_mm256_add_pd (_mm256_mul_pd (xi_130 s) (_mm256_set_pd (-1) (-1) (-1) (-1))) (_mm256_mul_pd (xi_139 s) (_mm256_set_pd (-1) (-1) (-1) (-1)))) (forceTerm_1 s)) (xi_134 s)) (xi_150 s)) (xi_163 s)) (xi_260 s)

def store_2 (s : Site K) : Fin 4 → K :=
  _mm256_add_pd (_mm256_add_pd (_mm256_add_pd (_mm256_add_pd (_mm256_add_pd (_mm256_add_pd (_mm256_mul_pd (xi_134 s) (_mm256_set_pd (-1) (-1) (-1) (-1))) (forceTerm_2 s)) (xi_130 s)) (xi_139 s)) (xi_163 s)) (xi_164 s)) (xi_278 s)

def store_3 (s : Site K) : Fin 4 → K :=
  _mm256_add_pd (_mm256_add_pd (_mm256_add_pd (_mm256_add_pd (_mm256_add_pd (_mm256_add_pd (_mm256_mul_pd (xi_167 s) (_mm256_set_pd (-1) (-1) (-1) (-1))) (forceTerm_3 s)) (xi_169 s)) (xi_171 s)) (xi_176 s)) (xi_177 s)) (xi_268 s)

def store_4 (s : Site K) : Fin 4 → K :=
  _mm256_add_pd (_mm256_add_pd (_mm256_add_pd (_mm256_add_pd (_mm256_add_pd (_mm256_add_pd (_mm256_mul_pd (xi_169 s) (_mm256_set_pd (-1) (-1) (-1) (-1))) (_mm256_mul_pd (xi_171 s) (_mm256_set_pd (-1) (-1) (-1) (-1)))) (forceTerm_4 s)) (xi_167 s)) (xi_177 s)) (xi_178 s)) (xi_266 s)

def store_5 (s : Site K) : Fin 4 → K :=
  _mm256_add_pd (_mm256_add_pd (_mm256_add_pd (_mm256_add_pd (_mm256_add_pd (_mm256_add_pd (_mm256_mul_pd (xi_181 s) (_mm256_set_pd (-1) (-1) (-1) (-1))) (_mm256_mul_pd (xi_185 s) (_mm256_set_pd (-1) (-1) (-1) (-1)))) (forceTerm_5 s)) (xi_183 s)) (xi_190 s)) (xi_191 s)) (xi_261 s)

def store_6 (s : Site K) : Fin 4 → K :=
  _mm256_add_pd (_mm256_add_pd (_mm256_add_pd (_mm256_add_pd (_mm256_add_pd (_mm256_add_pd (_mm256_mul_pd (xi_183 s) (_mm256_set_pd (-1) (-1) (-1) (-1))) (forceTerm_6 s)) (xi_181 s)) (xi_185 s)) (xi_191 s)) (xi_192 s)) (xi_267 s)

def store_7 (s : Site K) : Fin 4 → K :=
  _mm256_add_pd (_mm256_add_pd (_mm256_add_pd (_mm256_add_pd (forceTerm_7 s) (xi_201 s)) (xi_205 s)) (xi_209 s)) (xi_269 s)

def store_8 (s : Site K) : Fin 4 → K :=
  _mm256_add_pd (_mm256_add_pd (_mm256_add_pd (_mm256_add_pd (forceTerm_8 s) (xi_201 s)) (xi_210 s)) (xi_212 s)) (xi_259 s)

def store_9 (s : Site K) : Fin 4 → K :=
  _mm256_add_pd (_mm256_add_pd (_mm256_add_pd (_mm256_add_pd (forceTerm_9 s) (xi_205 s)) (xi_210 s)) (xi_214 s)) (xi_274 s)

def store_10 (s : Site K) : Fin 4 → K :=
  _mm256_add_pd (_mm256_add_pd (_mm256_add_pd (_mm256_add_pd (forceTerm_10 s) (xi_209 s)) (xi_212 s)) (xi_214 s)) (xi_265 s)

def store_11 (s : Site K) : Fin 4 → K :=
  _mm256_add_pd (_mm256_add_pd (_mm256_add_pd (_mm256_add_pd (forceTerm_11 s) (xi_221 s)) (xi_233 s)) (xi_238 s)) (xi_264 s)

def store_12 (s : Site K) : Fin 4 → K :=
  _mm256_add_pd (_mm256_add_pd (_mm256_add_pd (_mm256_add_pd (forceTerm_12 s) (xi_233 s)) (xi_239 s)) (xi_240 s)) (xi_279 s)

def store_13 (s : Site K) : Fin 4 → K :=
  _mm256_add_pd (_mm256_add_pd (_mm256_add_pd (_mm256_add_pd (forceTerm_13 s) (xi_245 s)) (xi_248 s)) (xi_253 s)) (xi_275 s)

def store_14 (s : Site K) : Fin 4 → K :=
  _mm256_add_pd (_mm256_add_pd (_mm256_add_pd (_mm256_add_pd (forceTerm_14 s) (xi_245 s)) (xi_254 s)) (xi_255 s)) (xi_272 s)

def store_15 (s : Site K) : Fin 4 → K :=
  _mm256_add_pd (_mm256_add_pd (_mm256_add_pd (_mm256_add_pd (forceTerm_15 s) (xi_238 s)) (xi_240 s)) (xi_257 s)) (xi_270 s)

def store_16 (s : Site K) : Fin 4 → K :=
  _mm256_add_pd (_mm256_add_pd (_mm256_add_pd (_mm256_add_pd (forceTerm_16 s) (xi_221 s)) (xi_239 s)) (xi_257 s)) (xi_280 s)

def store_17 (s : Site K) : Fin 4 → K :=
  _mm256_add_pd (_mm256_add_pd (_mm256_add_pd (_mm256_add_pd (forceTerm_17 s) (xi_253 s)) (xi_254 s)) (xi_258 s)) (xi_276 s)

def store_18 (s : Site K) : Fin 4 → K :=
  _mm256_add_pd (_mm256_add_pd (_mm256_add_pd (_mm256_add_pd (forceTerm_18 s) (xi_248 s)) (xi_255 s)) (xi_258 s)) (xi_262 s)

/-- The four-lane vector stored to each of the nineteen slots of the current cell. -/
def values (s : Site K) : Fin 19 → Fin 4 → K :=
  ![store_0 s, store_1 s, store_2 s, store_3 s, store_4 s, store_5 s, store_6 s,
    store_7 s, store_8 s, store_9 s, store_10 s, store_11 s, store_12 s,
    store_13 s, store_14 s, store_15 s, store_16 s, store_17 s, store_18 s]

end kernel_collide

/-! ### Loop body of the AVX `kernel_streamCollide` (lines 57-499) -/

namespace kernel_streamCollide

def xi_40 (s : Site K) : K :=
  -s.omega_bulk

def xi_51 (s : Site K) : K :=
  -s.omega_shear

def xi_52 (s : Site K) : K :=
  xi_51 s + 2

def xi_53 (s : Site K) : K :=
  xi_52 s * (1 / 2)

def xi_58 (s : Site K) : K :=
  xi_52 s * (1 / 12)

def xi_63 (s : Site K) : K :=
  xi_52 s * (1 / 6)

def xi_73 (s : Site K) : K :=
  xi_52 s * (1 / 4)

def xi_78 (s : Site K) : K :=
  xi_52 s * (1 / 24)

def xi_105 (s : Site K) : K :=
  (24494897427831779 / 10000000000000000)

def xi_129 (s : Site K) : K :=
  s.omega_odd * (1 / 4)

def xi_144 (s : Site K) : K :=
  s.omega_odd * (1 / 12)

def xi_207 (s : Site K) : K :=
  s.omega_shear * (1 / 4)

def xi_222 (s : Site K) : K :=
  s.omega_odd * (1 / 24)

def xi_224 (s : Site K) : K :=
  s.omega_odd * (1 / 8)

def rr_0 (s : Site K) : K :=
  0

def xi_133 (s : Site K) : K :=
  rr_0 s * (1 / 6)

def xi_197 (s : Site K) : K :=
  rr_0 s * (1 / 12)

def random_7 (s : Site K) : (Fin 4 → K) × (Fin 4 → K) :=
  philox_double2_m256 s.philox_double2 s.time_step (_mm256_add_epi32 (_mm256_add_epi32 (_mm256_set_epi32 (s.block_offset_0) (s.block_offset_0) (s.block_offset_0) (s.block_offset_0) (s.block_offset_0) (s.block_offset_0) (s.block_offset_0) (s.block_offset_0)) (_mm256_set_epi32 (7) (6) (5) (4) (3) (2) (1) (0))) (_mm256_set_epi32 (s.ctr_0) (s.ctr_0) (s.ctr_0) (s.ctr_0) (s.ctr_0) (s.ctr_0) (s.ctr_0) (s.ctr_0))) (u32 (s.block_offset_1 + s.ctr_1)) (u32 (s.block_offset_2 + s.ctr_2)) 7 s.seed

def random_7_0 (s : Site K) : Fin 4 → K :=
  (random_7 s).1

def random_7_1 (s : Site K) : Fin 4 → K :=
  (random_7 s).2

def random_6 (s : Site K) : (Fin 4 → K) × (Fin 4 → K) :=
  philox_double2_m256 s.philox_double2 s.time_step (_mm256_add_epi32 (_mm256_add_epi32 (_mm256_set_epi32 (s.block_offset_0) (s.block_offset_0) (s.block_offset_0) (s.block_offset_0) (s.block_offset_0) (s.block_offset_0) (s.block_offset_0) (s.block_offset_0)) (_mm256_set_epi32 (7) (6) (5) (4) (3) (2) (1) (0))) (_mm256_set_epi32 (s.ctr_0) (s.ctr_0) (s.ctr_0) (s.ctr_0) (s.ctr_0) (s.ctr_0) (s.ctr_0) (s.ctr_0))) (u32 (s.block_offset_1 + s.ctr_1)) (u32 (s.block_offset_2 + s.ctr_2)) 6 s.seed

def random_6_0 (s : Site K) : Fin 4 → K :=
  (random_6 s).1

def random_6_1 (s : Site K) : Fin 4 → K :=
  (random_6 s).2

def random_5 (s : Site K) : (Fin 4 → K) × (Fin 4 → K) :=
  philox_double2_m256 s.philox_double2 s.time_step (_mm256_add_epi32 (_mm256_add_epi32 (_mm256_set_epi32 (s.block_offset_0) (s.block_offset_0) (s.block_offset_0) (s.block_offset_0) (s.block_offset_0) (s.block_offset_0) (s.block_offset_0) (s.block_offset_0)) (_mm256_set_epi32 (7) (6) (5) (4) (3) (2) (1) (0))) (_mm256_set_epi32 (s.ctr_0) (s.ctr_0) (s.ctr_0) (s.ctr_0) (s.ctr_0) (s.ctr_0) (s.ctr_0) (s.ctr_0))) (u32 (s.block_offset_1 + s.ctr_1)) (u32 (s.block_offset_2 + s.ctr_2)) 5 s.seed

def random_5_0 (s : Site K) : Fin 4 → K :=
  (random_5 s).1

def random_5_1 (s : Site K) : Fin 4 → K :=
  (random_5 s).2

def random_4 (s : Site K) : (Fin 4 → K) × (Fin 4 → K) :=
  philox_double2_m256 s.philox_double2 s.time_step (_mm256_add_epi32 (_mm256_add_epi32 (_mm256_set_epi32 (s.block_offset_0) (s.block_offset_0) (s.block_offset_0) (s.block_offset_0) (s.block_offset_0) (s.block_offset_0) (s.block_offset_0) (s.block_offset_0)) (_mm256_set_epi32 (7) (6) (5) (4) (3) (2) (1) (0))) (_mm256_set_epi32 (s.ctr_0) (s.ctr_0) (s.ctr_0) (s.ctr_0) (s.ctr_0) (s.ctr_0) (s.ctr_0) (s.ctr_0))) (u32 (s.block_offset_1 + s.ctr_1)) (u32 (s.block_offset_2 + s.ctr_2)) 4 s.seed

def random_4_0 (s : Site K) : Fin 4 → K :=
  (random_4 s).1

def random_4_1 (s : Site K) : Fin 4 → K :=
  (random_4 s).2

def random_3 (s : Site K) : (Fin 4 → K) × (Fin 4 → K) :=
  philox_double2_m256 s.philox_double2 s.time_step (_mm256_add_epi32 (_mm256_add_epi32 (_mm256_set_epi32 (s.block_offset_0) (s.block_offset_0) (s.block_offset_0) (s.block_offset_0) (s.block_offset_0) (s.block_offset_0) (s.block_offset_0) (s.block_offset_0)) (_mm256_set_epi32 (7) (6) (5) (4) (3) (2) (1) (0))) (_mm256_set_epi32 (s.ctr_0) (s.ctr_0) (s.ctr_0) (s.ctr_0) (s.ctr_0) (s.ctr_0) (s.ctr_0) (s.ctr_0))) (u32 (s.block_offset_1 + s.ctr_1)) (u32 (s.block_offset_2 + s.ctr_2)) 3 s.seed

def random_3_0 (s : Site K) : Fin 4 → K :=
  (random_3 s).1

def random_3_1 (s : Site K) : Fin 4 → K :=
  (random_3 s).2

def random_2 (s : Site K) : (Fin 4 → K) × (Fin 4 → K) :=
  philox_double2_m256 s.philox_double2 s.time_step (_mm256_add_epi32 (_mm256_add_epi32 (_mm256_set_epi32 (s.block_offset_0) (s.block_offset_0) (s.block_offset_0) (s.block_offset_0) (s.block_offset_0) (s.block_offset_0) (s.block_offset_0) (s.block_offset_0)) (_mm256_set_epi32 (7) (6) (5) (4) (3) (2) (1) (0))) (_mm256_set_epi32 (s.ctr_0) (s.ctr_0) (s.ctr_0) (s.ctr_0) (s.ctr_0) (s.ctr_0) (s.ctr_0) (s.ctr_0))) (u32 (s.block_offset_1 + s.ctr_1)) (u32 (s.block_offset_2 + s.ctr_2)) 2 s.seed

def random_2_0 (s : Site K) : Fin 4 → K :=
  (random_2 s).1

def random_2_1 (s : Site K) : Fin 4 → K :=
  (random_2 s).2

def random_1 (s : Site K) : (Fin 4 → K) × (Fin 4 → K) :=
  philox_double2_m256 s.philox_double2 s.time_step (_mm256_add_epi32 (_mm256_add_epi32 (_mm256_set_epi32 (s.block_offset_0) (s.block_offset_0) (s.block_offset_0) (s.block_offset_0) (s.block_offset_0) (s.block_offset_0) (s.block_offset_0) (s.block_offset_0)) (_mm256_set_epi32 (7) (6) (5) (4) (3) (2) (1) (0))) (_mm256_set_epi32 (s.ctr_0) (s.ctr_0) (s.ctr_0) (s.ctr_0) (s.ctr_0) (s.ctr_0) (s.ctr_0) (s.ctr_0))) (u32 (s.block_offset_1 + s.ctr_1)) (u32 (s.block_offset_2 + s.ctr_2)) 1 s.seed

def random_1_0 (s : Site K) : Fin 4 → K :=
  (random_1 s).1

def random_1_1 (s : Site K) : Fin 4 → K :=
  (random_1 s).2

def random_0 (s : Site K) : (Fin 4 → K) × (Fin 4 → K) :=
  philox_double2_m256 s.philox_double2 s.time_step (_mm256_add_epi32 (_mm256_add_epi32 (_mm256_set_epi32 (s.block_offset_0) (s.block_offset_0) (s.block_offset_0) (s.block_offset_0) (s.block_offset_0) (s.block_offset_0) (s.block_offset_0) (s.block_offset_0)) (_mm256_set_epi32 (7) (6) (5) (4) (3) (2) (1) (0))) (_mm256_set_epi32 (s.ctr_0) (s.ctr_0) (s.ctr_0) (s.ctr_0) (s.ctr_0) (s.ctr_0) (s.ctr_0) (s.ctr_0))) (u32 (s.block_offset_1 + s.ctr_1)) (u32 (s.block_offset_2 + s.ctr_2)) 0 s.seed

def random_0_0 (s : Site K) : Fin 4 → K :=
  (random_0 s).1

def random_0_1 (s : Site K) : Fin 4 → K :=
  (random_0 s).2

def xi_0 (s : Site K) : Fin 4 → K :=
  _mm256_add_pd (_mm256_loadu_pd (fun x => s._data_pdfs x (s.ctr_1 + 1) s.ctr_2 10) (s.ctr_0 - 1)) (_mm256_loadu_pd (fun x => s._data_pdfs x (s.ctr_1 - 1) s.ctr_2 8) (s.ctr_0 - 1))

def xi_1 (s : Site K) : Fin 4 → K :=
  _mm256_add_pd (_mm256_loadu_pd (fun x => s._data_pdfs x s.ctr_1 (s.ctr_2 + 1) 18) (s.ctr_0 - 1)) (_mm256_loadu_pd (fun x => s._data_pdfs x s.ctr_1 (s.ctr_2 - 1) 14) (s.ctr_0 - 1))

def xi_2 (s : Site K) : Fin 4 → K :=
  _mm256_add_pd (_mm256_add_pd (xi_0 s) (xi_1 s)) (_mm256_loadu_pd (fun x => s._data_pdfs x s.ctr_1 s.ctr_2 4) (s.ctr_0 - 1))

def xi_3 (s : Site K) : Fin 4 → K :=
  _mm256_add_pd (_mm256_load_pd (fun x => s._data_pdfs x (s.ctr_1 - 1) (s.ctr_2 + 1) 15) s.ctr_0) (_mm256_load_pd (fun x => s._data_pdfs x (s.ctr_1 - 1) (s.ctr_2 - 1) 11) s.ctr_0)

def xi_4 (s : Site K) : Fin 4 → K :=
  _mm256_add_pd (xi_3 s) (_mm256_load_pd (fun x => s._data_pdfs x (s.ctr_1 - 1) s.ctr_2 1) s.ctr_0)

def xi_5 (s : Site K) : Fin 4 → K :=
  _mm256_add_pd (xi_4 s) (_mm256_loadu_pd (fun x => s._data_pdfs x (s.ctr_1 - 1) s.ctr_2 7) (s.ctr_0 + 1))

def xi_6 (s : Site K) : Fin 4 → K :=
  _mm256_add_pd (_mm256_load_pd (fun x => s._data_pdfs x (s.ctr_1 + 1) (s.ctr_2 - 1) 12) s.ctr_0) (_mm256_load_pd (fun x => s._data_pdfs x s.ctr_1 (s.ctr_2 - 1) 5) s.ctr_0)

def xi_7 (s : Site K) : Fin 4 → K :=
  _mm256_add_pd (xi_6 s) (_mm256_loadu_pd (fun x => s._data_pdfs x s.ctr_1 (s.ctr_2 - 1) 13) (s.ctr_0 + 1))

def xi_8 (s : Site K) : Fin 4 → K :=
  _mm256_add_pd (_mm256_loadu_pd (fun x => s._data_pdfs x s.ctr_1 s.ctr_2 3) (s.ctr_0 + 1)) (_mm256_loadu_pd (fun x => s._data_pdfs x (s.ctr_1 + 1) s.ctr_2 9) (s.ctr_0 + 1))

def xi_9 (s : Site K) : Fin 4 → K :=
  _mm256_add_pd (_mm256_load_pd (fun x => s._data_pdfs x (s.ctr_1 + 1) s.ctr_2 2) s.ctr_0) (_mm256_load_pd (fun x => s._data_pdfs x (s.ctr_1 + 1) (s.ctr_2 + 1) 16) s.ctr_0)

def xi_10 (s : Site K) : Fin 4 → K :=
  _mm256_add_pd (_mm256_loadu_pd (fun x => s._data_pdfs x s.ctr_1 (s.ctr_2 + 1) 17) (s.ctr_0 + 1)) (_mm256_load_pd (fun x => s._data_pdfs x s.ctr_1 (s.ctr_2 + 1) 6) s.ctr_0)

def xi_12 (s : Site K) : Fin 4 → K :=
  _mm256_mul_pd (_mm256_set_pd (-1) (-1) (-1) (-1)) (_mm256_loadu_pd (fun x => s._data_pdfs x s.ctr_1 (s.ctr_2 + 1) 17) (s.ctr_0 + 1))

def xi_13 (s : Site K) : Fin 4 → K :=
  _mm256_mul_pd (_mm256_set_pd (-1) (-1) (-1) (-1)) (_mm256_loadu_pd (fun x => s._data_pdfs x s.ctr_1 s.ctr_2 3) (s.ctr_0 + 1))

def xi_14 (s : Site K) : Fin 4 → K :=
  _mm256_add_pd (xi_12 s) (xi_13 s)

def xi_15 (s : Site K) : Fin 4 → K :=
  _mm256_mul_pd (_mm256_set_pd (-1) (-1) (-1) (-1)) (_mm256_loadu_pd (fun x => s._data_pdfs x s.ctr_1 (s.ctr_2 - 1) 13) (s.ctr_0 + 1))

def xi_16 (s : Site K) : Fin 4 → K :=
  _mm256_mul_pd (_mm256_set_pd (-1) (-1) (-1) (-1)) (_mm256_loadu_pd (fun x => s._data_pdfs x (s.ctr_1 - 1) s.ctr_2 7) (s.ctr_0 + 1))

def xi_17 (s : Site K) : Fin 4 → K :=
  _mm256_mul_pd (_mm256_set_pd (-1) (-1) (-1) (-1)) (_mm256_loadu_pd (fun x => s._data_pdfs x (s.ctr_1 + 1) s.ctr_2 9) (s.ctr_0 + 1))

def xi_18 (s : Site K) : Fin 4 → K :=
  _mm256_add_pd (xi_16 s) (xi_17 s)

def xi_19 (s : Site K) : Fin 4 → K :=
  _mm256_add_pd (xi_15 s) (xi_18 s)

def xi_20 (s : Site K) : Fin 4 → K :=
  _mm256_mul_pd (_mm256_set_pd (-1) (-1) (-1) (-1)) (_mm256_loadu_pd (fun x => s._data_pdfs x (s.ctr_1 + 1) s.ctr_2 10) (s.ctr_0 - 1))

def xi_21 (s : Site K) : Fin 4 → K :=
  _mm256_add_pd (xi_20 s) (_mm256_loadu_pd (fun x => s._data_pdfs x (s.ctr_1 - 1) s.ctr_2 8) (s.ctr_0 - 1))

def xi_22 (s : Site K) : Fin 4 → K :=
  _mm256_mul_pd (_mm256_set_pd (-1) (-1) (-1) (-1)) (_mm256_load_pd (fun x => s._data_pdfs x (s.ctr_1 + 1) (s.ctr_2 - 1) 12) s.ctr_0)

def xi_23 (s : Site K) : Fin 4 → K :=
  _mm256_mul_pd (_mm256_set_pd (-1) (-1) (-1) (-1)) (_mm256_load_pd (fun x => s._data_pdfs x (s.ctr_1 + 1) s.ctr_2 2) s.ctr_0)

def xi_24 (s : Site K) : Fin 4 → K :=
  _mm256_mul_pd (_mm256_set_pd (-1) (-1) (-1) (-1)) (_mm256_load_pd (fun x => s._data_pdfs x (s.ctr_1 + 1) (s.ctr_2 + 1) 16) s.ctr_0)

def xi_25 (s : Site K) : Fin 4 → K :=
  _mm256_add_pd (_mm256_add_pd (xi_22 s) (xi_23 s)) (xi_24 s)

def xi_26 (s : Site K) : Fin 4 → K :=
  _mm256_mul_pd (_mm256_set_pd (-1) (-1) (-1) (-1)) (_mm256_loadu_pd (fun x => s._data_pdfs x s.ctr_1 (s.ctr_2 + 1) 18) (s.ctr_0 - 1))

def xi_27 (s : Site K) : Fin 4 → K :=
  _mm256_add_pd (xi_12 s) (xi_26 s)

def xi_28 (s : Site K) : Fin 4 → K :=
  _mm256_mul_pd (_mm256_set_pd (-1) (-1) (-1) (-1)) (_mm256_load_pd (fun x => s._data_pdfs x (s.ctr_1 - 1) (s.ctr_2 + 1) 15) s.ctr_0)

def xi_29 (s : Site K) : Fin 4 → K :=
  _mm256_mul_pd (_mm256_set_pd (-1) (-1) (-1) (-1)) (_mm256_load_pd (fun x => s._data_pdfs x s.ctr_1 (s.ctr_2 + 1) 6) s.ctr_0)

def xi_30 (s : Site K) : Fin 4 → K :=
  _mm256_add_pd (_mm256_add_pd (_mm256_add_pd (xi_24 s) (xi_28 s)) (xi_29 s)) (_mm256_load_pd (fun x => s._data_pdfs x (s.ctr_1 - 1) (s.ctr_2 - 1) 11) s.ctr_0)

def xi_31 (s : Site K) : Fin 4 → K :=
  _mm256_add_pd (_mm256_loadu_pd (fun x => s._data_pdfs x s.ctr_1 (s.ctr_2 + 1) 17) (s.ctr_0 + 1)) (_mm256_loadu_pd (fun x => s._data_pdfs x s.ctr_1 (s.ctr_2 - 1) 13) (s.ctr_0 + 1))

def xi_32 (s : Site K) : Fin 4 → K :=
  _mm256_add_pd (_mm256_add_pd (xi_31 s) (xi_8 s)) (_mm256_loadu_pd (fun x => s._data_pdfs x (s.ctr_1 - 1) s.ctr_2 7) (s.ctr_0 + 1))

def xi_33 (s : Site K) : Fin 4 → K :=
  _mm256_add_pd (_mm256_add_pd (xi_16 s) (xi_21 s)) (_mm256_loadu_pd (fun x => s._data_pdfs x (s.ctr_1 + 1) s.ctr_2 9) (s.ctr_0 + 1))

def xi_34 (s : Site K) : Fin 4 → K :=
  _mm256_add_pd (xi_26 s) (_mm256_loadu_pd (fun x => s._data_pdfs x s.ctr_1 (s.ctr_2 + 1) 17) (s.ctr_0 + 1))

def xi_35 (s : Site K) : Fin 4 → K :=
  _mm256_add_pd (xi_15 s) (_mm256_loadu_pd (fun x => s._data_pdfs x s.ctr_1 (s.ctr_2 - 1) 14) (s.ctr_0 - 1))

def xi_36 (s : Site K) : Fin 4 → K :=
  _mm256_add_pd (xi_34 s) (xi_35 s)

def xi_37 (s : Site K) : Fin 4 → K :=
  _mm256_add_pd (_mm256_add_pd (xi_9 s) (_mm256_loadu_pd (fun x => s._data_pdfs x (s.ctr_1 + 1) s.ctr_2 9) (s.ctr_0 + 1))) (_mm256_load_pd (fun x => s._data_pdfs x (s.ctr_1 + 1) (s.ctr_2 - 1) 12) s.ctr_0)

def xi_38 (s : Site K) : Fin 4 → K :=
  _mm256_add_pd (xi_28 s) (_mm256_load_pd (fun x => s._data_pdfs x (s.ctr_1 + 1) (s.ctr_2 + 1) 16) s.ctr_0)

def xi_39 (s : Site K) : Fin 4 → K :=
  _mm256_add_pd (_mm256_add_pd (xi_22 s) (xi_38 s)) (_mm256_load_pd (fun x => s._data_pdfs x (s.ctr_1 - 1) (s.ctr_2 - 1) 11) s.ctr_0)

def xi_57 (s : Site K) : Fin 4 → K :=
  _mm256_mul_pd (_mm256_set_pd ((1 / 6)) ((1 / 6)) ((1 / 6)) ((1 / 6))) (_mm256_load_pd (fun x => s._data_force x s.ctr_1 s.ctr_2 1) s.ctr_0)

def xi_65 (s : Site K) : Fin 4 → K :=
  _mm256_mul_pd (_mm256_set_pd ((1 / 6)) ((1 / 6)) ((1 / 6)) ((1 / 6))) (_mm256_load_pd (fun x => s._data_force x s.ctr_1 s.ctr_2 0) s.ctr_0)

def xi_69 (s : Site K) : Fin 4 → K :=
  _mm256_mul_pd (_mm256_set_pd ((1 / 6)) ((1 / 6)) ((1 / 6)) ((1 / 6))) (_mm256_load_pd (fun x => s._data_force x s.ctr_1 s.ctr_2 2) s.ctr_0)

def xi_72 (s : Site K) : Fin 4 → K :=
  _mm256_mul_pd (_mm256_set_pd ((1 / 2)) ((1 / 2)) ((1 / 2)) ((1 / 2))) (_mm256_load_pd (fun x => s._data_force x s.ctr_1 s.ctr_2 1) s.ctr_0)

def xi_76 (s : Site K) : Fin 4 → K :=
  _mm256_mul_pd (_mm256_set_pd ((1 / 12)) ((1 / 12)) ((1 / 12)) ((1 / 12))) (_mm256_load_pd (fun x => s._data_force x s.ctr_1 s.ctr_2 0) s.ctr_0)

def xi_80 (s : Site K) : Fin 4 → K :=
  _mm256_mul_pd (_mm256_set_pd ((1 / 12)) ((1 / 12)) ((1 / 12)) ((1 / 12))) (_mm256_load_pd (fun x => s._data_force x s.ctr_1 s.ctr_2 1) s.ctr_0)

def xi_90 (s : Site K) : Fin 4 → K :=
  _mm256_mul_pd (_mm256_set_pd ((1 / 12)) ((1 / 12)) ((1 / 12)) ((1 / 12))) (_mm256_load_pd (fun x => s._data_force x s.ctr_1 s.ctr_2 2) s.ctr_0)

def xi_108 (s : Site K) : Fin 4 → K :=
  _mm256_mul_pd (_mm256_set_pd (-1) (-1) (-1) (-1)) (_mm256_load_pd (fun x => s._data_pdfs x s.ctr_1 s.ctr_2 0) s.ctr_0)

def xi_109 (s : Site K) : Fin 4 → K :=
  _mm256_add_pd (_mm256_add_pd (_mm256_mul_pd (_mm256_set_pd (3) (3) (3) (3)) (_mm256_load_pd (fun x => s._data_pdfs x s.ctr_1 (s.ctr_2 + 1) 6) s.ctr_0)) (_mm256_mul_pd (_mm256_set_pd (3) (3) (3) (3)) (_mm256_load_pd (fun x => s._data_pdfs x s.ctr_1 (s.ctr_2 - 1) 5) s.ctr_0))) (xi_108 s)

def xi_110 (s : Site K) : Fin 4 → K :=
  _mm256_mul_pd (_mm256_add_pd (_mm256_add_pd (_mm256_add_pd (_mm256_add_pd (_mm256_add_pd (_mm256_add_pd (_mm256_mul_pd (_mm256_set_pd (-3) (-3) (-3) (-3)) (_mm256_load_pd (fun x => s._data_pdfs x (s.ctr_1 - 1) (s.ctr_2 + 1) 15) s.ctr_0)) (_mm256_mul_pd (_mm256_set_pd (-3) (-3) (-3) (-3)) (_mm256_load_pd (fun x => s._data_pdfs x (s.ctr_1 + 1) (s.ctr_2 + 1) 16) s.ctr_0))) (_mm256_mul_pd (_mm256_set_pd (-3) (-3) (-3) (-3)) (_mm256_load_pd (fun x => s._data_pdfs x (s.ctr_1 - 1) (s.ctr_2 - 1) 11) s.ctr_0))) (_mm256_mul_pd (_mm256_set_pd (-3) (-3) (-3) (-3)) (_mm256_load_pd (fun x => s._data_pdfs x (s.ctr_1 + 1) (s.ctr_2 - 1) 12) s.ctr_0))) (_mm256_mul_pd (_mm256_set_pd (3) (3) (3) (3)) (_mm256_load_pd (fun x => s._data_pdfs x (s.ctr_1 - 1) s.ctr_2 1) s.ctr_0))) (_mm256_mul_pd (_mm256_set_pd (3) (3) (3) (3)) (_mm256_load_pd (fun x => s._data_pdfs x (s.ctr_1 + 1) s.ctr_2 2) s.ctr_0))) (xi_109 s)) (_mm256_set_pd (s.omega_even) (s.omega_even) (s.omega_even) (s.omega_even))

def xi_111 (s : Site K) : Fin 4 → K :=
  _mm256_add_pd (_mm256_add_pd (_mm256_add_pd (_mm256_mul_pd (_mm256_set_pd (2) (2) (2) (2)) (_mm256_load_pd (fun x => s._data_pdfs x (s.ctr_1 - 1) (s.ctr_2 + 1) 15) s.ctr_0)) (_mm256_mul_pd (_mm256_set_pd (2) (2) (2) (2)) (_mm256_load_pd (fun x => s._data_pdfs x (s.ctr_1 + 1) (s.ctr_2 + 1) 16) s.ctr_0))) (_mm256_mul_pd (_mm256_set_pd (2) (2) (2) (2)) (_mm256_load_pd (fun x => s._data_pdfs x (s.ctr_1 - 1) (s.ctr_2 - 1) 11) s.ctr_0))) (_mm256_mul_pd (_mm256_set_pd (2) (2) (2) (2)) (_mm256_load_pd (fun x => s._data_pdfs x (s.ctr_1 + 1) (s.ctr_2 - 1) 12) s.ctr_0))

def xi_112 (s : Site K) : Fin 4 → K :=
  _mm256_add_pd (_mm256_add_pd (_mm256_mul_pd (_mm256_set_pd (5) (5) (5) (5)) (_mm256_loadu_pd (fun x => s._data_pdfs x s.ctr_1 s.ctr_2 3) (s.ctr_0 + 1))) (_mm256_mul_pd (_mm256_set_pd (5) (5) (5) (5)) (_mm256_loadu_pd (fun x => s._data_pdfs x s.ctr_1 s.ctr_2 4) (s.ctr_0 - 1)))) (xi_111 s)

def xi_113 (s : Site K) : Fin 4 → K :=
  _mm256_mul_pd (_mm256_add_pd (_mm256_add_pd (_mm256_add_pd (_mm256_add_pd (_mm256_add_pd (_mm256_add_pd (_mm256_add_pd (_mm256_mul_pd (_mm256_set_pd (-5) (-5) (-5) (-5)) (_mm256_loadu_pd (fun x => s._data_pdfs x s.ctr_1 (s.ctr_2 + 1) 17) (s.ctr_0 + 1))) (_mm256_mul_pd (_mm256_set_pd (-5) (-5) (-5) (-5)) (_mm256_loadu_pd (fun x => s._data_pdfs x s.ctr_1 (s.ctr_2 + 1) 18) (s.ctr_0 - 1)))) (_mm256_mul_pd (_mm256_set_pd (-5) (-5) (-5) (-5)) (_mm256_loadu_pd (fun x => s._data_pdfs x s.ctr_1 (s.ctr_2 - 1) 13) (s.ctr_0 + 1)))) (_mm256_mul_pd (_mm256_set_pd (-5) (-5) (-5) (-5)) (_mm256_loadu_pd (fun x => s._data_pdfs x s.ctr_1 (s.ctr_2 - 1) 14) (s.ctr_0 - 1)))) (_mm256_mul_pd (_mm256_set_pd (-2) (-2) (-2) (-2)) (_mm256_load_pd (fun x => s._data_pdfs x (s.ctr_1 - 1) s.ctr_2 1) s.ctr_0))) (_mm256_mul_pd (_mm256_set_pd (-2) (-2) (-2) (-2)) (_mm256_load_pd (fun x => s._data_pdfs x (s.ctr_1 + 1) s.ctr_2 2) s.ctr_0))) (xi_109 s)) (xi_112 s)) (_mm256_set_pd (s.omega_even) (s.omega_even) (s.omega_even) (s.omega_even))

def xi_116 (s : Site K) : Fin 4 → K :=
  _mm256_mul_pd (_mm256_set_pd (-1) (-1) (-1) (-1)) (_mm256_load_pd (fun x => s._data_pdfs x (s.ctr_1 - 1) (s.ctr_2 - 1) 11) s.ctr_0)

def xi_117 (s : Site K) : Fin 4 → K :=
  _mm256_add_pd (xi_116 s) (xi_22 s)

def xi_118 (s : Site K) : Fin 4 → K :=
  _mm256_mul_pd (_mm256_set_pd (-1) (-1) (-1) (-1)) (_mm256_loadu_pd (fun x => s._data_pdfs x (s.ctr_1 - 1) s.ctr_2 8) (s.ctr_0 - 1))

def xi_121 (s : Site K) : Fin 4 → K :=
  _mm256_mul_pd (_mm256_set_pd (-1) (-1) (-1) (-1)) (_mm256_loadu_pd (fun x => s._data_pdfs x s.ctr_1 (s.ctr_2 - 1) 14) (s.ctr_0 - 1))

def xi_122 (s : Site K) : Fin 4 → K :=
  _mm256_add_pd (_mm256_add_pd (xi_121 s) (xi_19 s)) (xi_27 s)

def xi_124 (s : Site K) : Fin 4 → K :=
  _mm256_mul_pd (_mm256_set_pd (2) (2) (2) (2)) (_mm256_loadu_pd (fun x => s._data_pdfs x s.ctr_1 (s.ctr_2 - 1) 13) (s.ctr_0 + 1))

def xi_125 (s : Site K) : Fin 4 → K :=
  _mm256_mul_pd (_mm256_set_pd (2) (2) (2) (2)) (_mm256_loadu_pd (fun x => s._data_pdfs x s.ctr_1 (s.ctr_2 - 1) 14) (s.ctr_0 - 1))

def xi_126 (s : Site K) : Fin 4 → K :=
  _mm256_add_pd (_mm256_mul_pd (_mm256_set_pd (2) (2) (2) (2)) (_mm256_loadu_pd (fun x => s._data_pdfs x s.ctr_1 (s.ctr_2 + 1) 17) (s.ctr_0 + 1))) (_mm256_mul_pd (_mm256_set_pd (2) (2) (2) (2)) (_mm256_loadu_pd (fun x => s._data_pdfs x s.ctr_1 (s.ctr_2 + 1) 18) (s.ctr_0 - 1)))

def xi_127 (s : Site K) : Fin 4 → K :=
  _mm256_mul_pd (_mm256_add_pd (_mm256_add_pd (_mm256_add_pd (_mm256_add_pd (_mm256_add_pd (_mm256_add_pd (_mm256_add_pd (_mm256_add_pd (_mm256_add_pd (_mm256_add_pd (_mm256_add_pd (_mm256_add_pd (_mm256_mul_pd (_mm256_set_pd (-7) (-7) (-7) (-7)) (_mm256_loadu_pd (fun x => s._data_pdfs x (s.ctr_1 + 1) s.ctr_2 10) (s.ctr_0 - 1))) (_mm256_mul_pd (_mm256_set_pd (-7) (-7) (-7) (-7)) (_mm256_loadu_pd (fun x => s._data_pdfs x (s.ctr_1 - 1) s.ctr_2 7) (s.ctr_0 + 1)))) (_mm256_mul_pd (_mm256_set_pd (-7) (-7) (-7) (-7)) (_mm256_loadu_pd (fun x => s._data_pdfs x (s.ctr_1 - 1) s.ctr_2 8) (s.ctr_0 - 1)))) (_mm256_mul_pd (_mm256_set_pd (-7) (-7) (-7) (-7)) (_mm256_loadu_pd (fun x => s._data_pdfs x (s.ctr_1 + 1) s.ctr_2 9) (s.ctr_0 + 1)))) (_mm256_mul_pd (_mm256_set_pd (-4) (-4) (-4) (-4)) (_mm256_load_pd (fun x => s._data_pdfs x s.ctr_1 (s.ctr_2 + 1) 6) s.ctr_0))) (_mm256_mul_pd (_mm256_set_pd (-4) (-4) (-4) (-4)) (_mm256_load_pd (fun x => s._data_pdfs x s.ctr_1 (s.ctr_2 - 1) 5) s.ctr_0))) (_mm256_mul_pd (_mm256_set_pd (5) (5) (5) (5)) (_mm256_load_pd (fun x => s._data_pdfs x (s.ctr_1 - 1) s.ctr_2 1) s.ctr_0))) (_mm256_mul_pd (_mm256_set_pd (5) (5) (5) (5)) (_mm256_load_pd (fun x => s._data_pdfs x (s.ctr_1 + 1) s.ctr_2 2) s.ctr_0))) (xi_108 s)) (xi_112 s)) (xi_124 s)) (xi_125 s)) (xi_126 s)) (_mm256_set_pd (s.omega_even) (s.omega_even) (s.omega_even) (s.omega_even))

def xi_128 (s : Site K) : Fin 4 → K :=
  _mm256_add_pd (_mm256_add_pd (_mm256_add_pd (_mm256_add_pd (xi_116 s) (xi_23 s)) (xi_38 s)) (_mm256_load_pd (fun x => s._data_pdfs x (s.ctr_1 - 1) s.ctr_2 1) s.ctr_0)) (_mm256_load_pd (fun x => s._data_pdfs x (s.ctr_1 + 1) (s.ctr_2 - 1) 12) s.ctr_0)

def xi_130 (s : Site K) : Fin 4 → K :=
  _mm256_mul_pd (xi_128 s) (_mm256_set_pd (xi_129 s) (xi_129 s) (xi_129 s) (xi_129 s))

def xi_135 (s : Site K) : Fin 4 → K :=
  _mm256_add_pd (random_5_1 s) (_mm256_set_pd (-(1 / 2)) (-(1 / 2)) (-(1 / 2)) (-(1 / 2)))

def xi_140 (s : Site K) : Fin 4 → K :=
  _mm256_mul_pd (_mm256_set_pd (2) (2) (2) (2)) (_mm256_loadu_pd (fun x => s._data_pdfs x (s.ctr_1 - 1) s.ctr_2 7) (s.ctr_0 + 1))

def xi_141 (s : Site K) : Fin 4 → K :=
  _mm256_mul_pd (_mm256_set_pd (2) (2) (2) (2)) (_mm256_loadu_pd (fun x => s._data_pdfs x (s.ctr_1 + 1) s.ctr_2 10) (s.ctr_0 - 1))

def xi_142 (s : Site K) : Fin 4 → K :=
  _mm256_add_pd (_mm256_mul_pd (_mm256_set_pd (-2) (-2) (-2) (-2)) (_mm256_loadu_pd (fun x => s._data_pdfs x (s.ctr_1 - 1) s.ctr_2 8) (s.ctr_0 - 1))) (_mm256_mul_pd (_mm256_set_pd (2) (2) (2) (2)) (_mm256_loadu_pd (fun x => s._data_pdfs x (s.ctr_1 + 1) s.ctr_2 9) (s.ctr_0 + 1)))

def xi_143 (s : Site K) : Fin 4 → K :=
  _mm256_add_pd (_mm256_add_pd (_mm256_add_pd (_mm256_add_pd (_mm256_mul_pd (xi_140 s) (_mm256_set_pd (-1) (-1) (-1) (-1))) (xi_141 s)) (xi_142 s)) (xi_25 s)) (xi_4 s)

def xi_145 (s : Site K) : Fin 4 → K :=
  _mm256_mul_pd (xi_143 s) (_mm256_set_pd (xi_144 s) (xi_144 s) (xi_144 s) (xi_144 s))

def xi_146 (s : Site K) : Fin 4 → K :=
  _mm256_add_pd (random_3_0 s) (_mm256_set_pd (-(1 / 2)) (-(1 / 2)) (-(1 / 2)) (-(1 / 2)))

def xi_151 (s : Site K) : Fin 4 → K :=
  _mm256_add_pd (random_0_1 s) (_mm256_set_pd (-(1 / 2)) (-(1 / 2)) (-(1 / 2)) (-(1 / 2)))

def xi_168 (s : Site K) : Fin 4 → K :=
  _mm256_add_pd (_mm256_add_pd (_mm256_add_pd (_mm256_add_pd (xi_121 s) (xi_13 s)) (xi_34 s)) (_mm256_loadu_pd (fun x => s._data_pdfs x s.ctr_1 s.ctr_2 4) (s.ctr_0 - 1))) (_mm256_loadu_pd (fun x => s._data_pdfs x s.ctr_1 (s.ctr_2 - 1) 13) (s.ctr_0 + 1))

def xi_169 (s : Site K) : Fin 4 → K :=
  _mm256_mul_pd (xi_168 s) (_mm256_set_pd (xi_129 s) (xi_129 s) (xi_129 s) (xi_129 s))

def xi_170 (s : Site K) : Fin 4 → K :=
  _mm256_add_pd (random_4_1 s) (_mm256_set_pd (-(1 / 2)) (-(1 / 2)) (-(1 / 2)) (-(1 / 2)))

def xi_172 (s : Site K) : Fin 4 → K :=
  _mm256_add_pd (_mm256_add_pd (_mm256_add_pd (_mm256_add_pd (_mm256_add_pd (_mm256_add_pd (_mm256_mul_pd (xi_141 s) (_mm256_set_pd (-1) (-1) (-1) (-1))) (xi_14 s)) (xi_140 s)) (xi_142 s)) (xi_35 s)) (_mm256_loadu_pd (fun x => s._data_pdfs x s.ctr_1 s.ctr_2 4) (s.ctr_0 - 1))) (_mm256_loadu_pd (fun x => s._data_pdfs x s.ctr_1 (s.ctr_2 + 1) 18) (s.ctr_0 - 1))

def xi_173 (s : Site K) : Fin 4 → K :=
  _mm256_mul_pd (xi_172 s) (_mm256_set_pd (xi_144 s) (xi_144 s) (xi_144 s) (xi_144 s))

def xi_174 (s : Site K) : Fin 4 → K :=
  _mm256_add_pd (random_4_0 s) (_mm256_set_pd (-(1 / 2)) (-(1 / 2)) (-(1 / 2)) (-(1 / 2)))

def xi_179 (s : Site K) : Fin 4 → K :=
  _mm256_add_pd (_mm256_load_pd (fun x => s._data_pdfs x (s.ctr_1 - 1) (s.ctr_2 + 1) 15) s.ctr_0) (_mm256_load_pd (fun x => s._data_pdfs x (s.ctr_1 + 1) (s.ctr_2 + 1) 16) s.ctr_0)

def xi_180 (s : Site K) : Fin 4 → K :=
  _mm256_add_pd (_mm256_add_pd (_mm256_add_pd (xi_117 s) (xi_179 s)) (xi_29 s)) (_mm256_load_pd (fun x => s._data_pdfs x s.ctr_1 (s.ctr_2 - 1) 5) s.ctr_0)

def xi_181 (s : Site K) : Fin 4 → K :=
  _mm256_mul_pd (xi_180 s) (_mm256_set_pd (xi_129 s) (xi_129 s) (xi_129 s) (xi_129 s))

def xi_184 (s : Site K) : Fin 4 → K :=
  _mm256_add_pd (random_5_0 s) (_mm256_set_pd (-(1 / 2)) (-(1 / 2)) (-(1 / 2)) (-(1 / 2)))

def xi_186 (s : Site K) : Fin 4 → K :=
  _mm256_add_pd (_mm256_add_pd (_mm256_add_pd (_mm256_add_pd (_mm256_mul_pd (xi_124 s) (_mm256_set_pd (-1) (-1) (-1) (-1))) (_mm256_mul_pd (xi_125 s) (_mm256_set_pd (-1) (-1) (-1) (-1)))) (xi_126 s)) (xi_30 s)) (xi_6 s)

def xi_187 (s : Site K) : Fin 4 → K :=
  _mm256_mul_pd (xi_186 s) (_mm256_set_pd (xi_144 s) (xi_144 s) (xi_144 s) (xi_144 s))

def xi_188 (s : Site K) : Fin 4 → K :=
  _mm256_add_pd (random_3_1 s) (_mm256_set_pd (-(1 / 2)) (-(1 / 2)) (-(1 / 2)) (-(1 / 2)))

def xi_195 (s : Site K) : Fin 4 → K :=
  _mm256_mul_pd (xi_127 s) (_mm256_set_pd ((1 / 72)) ((1 / 72)) ((1 / 72)) ((1 / 72)))

def xi_216 (s : Site K) : Fin 4 → K :=
  _mm256_mul_pd (xi_113 s) (_mm256_set_pd (-(1 / 140)) (-(1 / 140)) (-(1 / 140)) (-(1 / 140)))

def xi_218 (s : Site K) : Fin 4 → K :=
  _mm256_mul_pd (xi_110 s) (_mm256_set_pd ((1 / 40)) ((1 / 40)) ((1 / 40)) ((1 / 40)))

def xi_223 (s : Site K) : Fin 4 → K :=
  _mm256_mul_pd (xi_186 s) (_mm256_set_pd (xi_222 s) (xi_222 s) (xi_222 s) (xi_222 s))

def xi_225 (s : Site K) : Fin 4 → K :=
  _mm256_mul_pd (xi_180 s) (_mm256_set_pd (xi_224 s) (xi_224 s) (xi_224 s) (xi_224 s))

def xi_234 (s : Site K) : Fin 4 → K :=
  _mm256_mul_pd (xi_143 s) (_mm256_set_pd (xi_222 s) (xi_222 s) (xi_222 s) (xi_222 s))

def xi_235 (s : Site K) : Fin 4 → K :=
  _mm256_mul_pd (xi_128 s) (_mm256_set_pd (xi_224 s) (xi_224 s) (xi_224 s) (xi_224 s))

def xi_243 (s : Site K) : Fin 4 → K :=
  _mm256_mul_pd (xi_113 s) (_mm256_set_pd ((1 / 56)) ((1 / 56)) ((1 / 56)) ((1 / 56)))

def xi_249 (s : Site K) : Fin 4 → K :=
  _mm256_mul_pd (xi_168 s) (_mm256_set_pd (xi_224 s) (xi_224 s) (xi_224 s) (xi_224 s))

def xi_250 (s : Site K) : Fin 4 → K :=
  _mm256_mul_pd (xi_172 s) (_mm256_set_pd (xi_222 s) (xi_222 s) (xi_222 s) (xi_222 s))

def vel0Term (s : Site K) : Fin 4 → K :=
  xi_2 s

def vel1Term (s : Site K) : Fin 4 → K :=
  xi_5 s

def vel2Term (s : Site K) : Fin 4 → K :=
  xi_7 s

def rho (s : Site K) : Fin 4 → K :=
  _mm256_add_pd (_mm256_add_pd (_mm256_add_pd (_mm256_add_pd (_mm256_add_pd (_mm256_add_pd (vel0Term s) (vel1Term s)) (vel2Term s)) (xi_10 s)) (xi_8 s)) (xi_9 s)) (_mm256_load_pd (fun x => s._data_pdfs x s.ctr_1 s.ctr_2 0) s.ctr_0)

def xi_11 (s : Site K) : Fin 4 → K :=
  _mm256_div_pd (_mm256_set_pd (1) (1) (1) (1)) (rho s)

def xi_101 (s : Site K) : Fin 4 → K :=
  _mm256_mul_pd (rho s) (_mm256_set_pd (s.kT) (s.kT) (s.kT) (s.kT))

def xi_102 (s : Site K) : Fin 4 → K :=
  _mm256_sqrt_pd s.sqrt (_mm256_mul_pd (xi_101 s) (_mm256_set_pd (-((-s.omega_even + 1) * (-s.omega_even + 1)) + 1) (-((-s.omega_even + 1) * (-s.omega_even + 1)) + 1) (-((-s.omega_even + 1) * (-s.omega_even + 1)) + 1) (-((-s.omega_even + 1) * (-s.omega_even + 1)) + 1)))

def xi_103 (s : Site K) : Fin 4 → K :=
  _mm256_mul_pd (_mm256_mul_pd (xi_102 s) (_mm256_add_pd (random_6_0 s) (_mm256_set_pd (-(1 / 2)) (-(1 / 2)) (-(1 / 2)) (-(1 / 2))))) (_mm256_set_pd ((37416573867739413 / 10000000000000000)) ((37416573867739413 / 10000000000000000)) ((37416573867739413 / 10000000000000000)) ((37416573867739413 / 10000000000000000)))

def xi_104 (s : Site K) : Fin 4 → K :=
  _mm256_mul_pd (_mm256_mul_pd (xi_102 s) (_mm256_add_pd (random_7_0 s) (_mm256_set_pd (-(1 / 2)) (-(1 / 2)) (-(1 / 2)) (-(1 / 2))))) (_mm256_set_pd ((54772255750516612 / 10000000000000000)) ((54772255750516612 / 10000000000000000)) ((54772255750516612 / 10000000000000000)) ((54772255750516612 / 10000000000000000)))

def xi_106 (s : Site K) : Fin 4 → K :=
  _mm256_mul_pd (_mm256_mul_pd (_mm256_sqrt_pd s.sqrt (_mm256_mul_pd (xi_101 s) (_mm256_set_pd (-((xi_40 s + 1) * (xi_40 s + 1)) + 1) (-((xi_40 s + 1) * (xi_40 s + 1)) + 1) (-((xi_40 s + 1) * (xi_40 s + 1)) + 1) (-((xi_40 s + 1) * (xi_40 s + 1)) + 1)))) (_mm256_add_pd (random_2_1 s) (_mm256_set_pd (-(1 / 2)) (-(1 / 2)) (-(1 / 2)) (-(1 / 2))))) (_mm256_set_pd (xi_105 s) (xi_105 s) (xi_105 s) (xi_105 s))

def xi_107 (s : Site K) : Fin 4 → K :=
  _mm256_mul_pd (_mm256_mul_pd (xi_102 s) (_mm256_add_pd (random_6_1 s) (_mm256_set_pd (-(1 / 2)) (-(1 / 2)) (-(1 / 2)) (-(1 / 2))))) (_mm256_set_pd ((83666002653407556 / 10000000000000000)) ((83666002653407556 / 10000000000000000)) ((83666002653407556 / 10000000000000000)) ((83666002653407556 / 10000000000000000)))

def xi_136 (s : Site K) : Fin 4 → K :=
  _mm256_sqrt_pd s.sqrt (_mm256_mul_pd (xi_101 s) (_mm256_set_pd (-((-s.omega_odd + 1) * (-s.omega_odd + 1)) + 1) (-((-s.omega_odd + 1) * (-s.omega_odd + 1)) + 1) (-((-s.omega_odd + 1) * (-s.omega_odd + 1)) + 1) (-((-s.omega_odd + 1) * (-s.omega_odd + 1)) + 1)))

def xi_137 (s : Site K) : Fin 4 → K :=
  _mm256_mul_pd (xi_136 s) (_mm256_set_pd ((14142135623730951 / 10000000000000000)) ((14142135623730951 / 10000000000000000)) ((14142135623730951 / 10000000000000000)) ((14142135623730951 / 10000000000000000)))

def xi_138 (s : Site K) : Fin 4 → K :=
  _mm256_mul_pd (xi_137 s) (_mm256_set_pd ((1 / 2)) ((1 / 2)) ((1 / 2)) ((1 / 2)))

def xi_139 (s : Site K) : Fin 4 → K :=
  _mm256_mul_pd (xi_135 s) (xi_138 s)

def xi_147 (s : Site K) : Fin 4 → K :=
  _mm256_mul_pd (xi_136 s) (_mm256_set_pd (xi_105 s) (xi_105 s) (xi_105 s) (xi_105 s))

def xi_148 (s : Site K) : Fin 4 → K :=
  _mm256_mul_pd (xi_147 s) (_mm256_set_pd ((1 / 6)) ((1 / 6)) ((1 / 6)) ((1 / 6)))

def xi_149 (s : Site K) : Fin 4 → K :=
  _mm256_mul_pd (xi_146 s) (xi_148 s)

def xi_150 (s : Site K) : Fin 4 → K :=
  _mm256_add_pd (_mm256_mul_pd (xi_145 s) (_mm256_set_pd (-1) (-1) (-1) (-1))) (_mm256_mul_pd (xi_149 s) (_mm256_set_pd (-1) (-1) (-1) (-1)))

def xi_152 (s : Site K) : Fin 4 → K :=
  _mm256_sqrt_pd s.sqrt (_mm256_mul_pd (xi_101 s) (_mm256_set_pd (-((xi_51 s + 1) * (xi_51 s + 1)) + 1) (-((xi_51 s + 1) * (xi_51 s + 1)) + 1) (-((xi_51 s + 1) * (xi_51 s + 1)) + 1) (-((xi_51 s + 1) * (xi_51 s + 1)) + 1)))

def xi_153 (s : Site K) : Fin 4 → K :=
  _mm256_mul_pd (xi_152 s) (_mm256_set_pd ((1 / 2)) ((1 / 2)) ((1 / 2)) ((1 / 2)))

def xi_154 (s : Site K) : Fin 4 → K :=
  _mm256_mul_pd (xi_151 s) (xi_153 s)

def xi_158 (s : Site K) : Fin 4 → K :=
  _mm256_add_pd (_mm256_mul_pd (xi_103 s) (_mm256_set_pd (-(5 / 42)) (-(5 / 42)) (-(5 / 42)) (-(5 / 42)))) (_mm256_mul_pd (xi_127 s) (_mm256_set_pd (-(5 / 252)) (-(5 / 252)) (-(5 / 252)) (-(5 / 252))))

def xi_160 (s : Site K) : Fin 4 → K :=
  _mm256_mul_pd (_mm256_mul_pd (xi_152 s) (_mm256_add_pd (random_0_0 s) (_mm256_set_pd (-(1 / 2)) (-(1 / 2)) (-(1 / 2)) (-(1 / 2))))) (_mm256_set_pd ((17320508075688772 / 10000000000000000)) ((17320508075688772 / 10000000000000000)) ((17320508075688772 / 10000000000000000)) ((17320508075688772 / 10000000000000000)))

def xi_164 (s : Site K) : Fin 4 → K :=
  _mm256_add_pd (xi_145 s) (xi_149 s)

def xi_171 (s : Site K) : Fin 4 → K :=
  _mm256_mul_pd (xi_138 s) (xi_170 s)

def xi_175 (s : Site K) : Fin 4 → K :=
  _mm256_mul_pd (xi_148 s) (xi_174 s)

def xi_176 (s : Site K) : Fin 4 → K :=
  _mm256_add_pd (xi_173 s) (xi_175 s)

def xi_178 (s : Site K) : Fin 4 → K :=
  _mm256_add_pd (_mm256_mul_pd (xi_173 s) (_mm256_set_pd (-1) (-1) (-1) (-1))) (_mm256_mul_pd (xi_175 s) (_mm256_set_pd (-1) (-1) (-1) (-1)))

def xi_185 (s : Site K) : Fin 4 → K :=
  _mm256_mul_pd (xi_138 s) (xi_184 s)

def xi_189 (s : Site K) : Fin 4 → K :=
  _mm256_mul_pd (xi_148 s) (xi_188 s)

def xi_190 (s : Site K) : Fin 4 → K :=
  _mm256_add_pd (_mm256_mul_pd (xi_187 s) (_mm256_set_pd (-1) (-1) (-1) (-1))) (_mm256_mul_pd (xi_189 s) (_mm256_set_pd (-1) (-1) (-1) (-1)))

def xi_192 (s : Site K) : Fin 4 → K :=
  _mm256_add_pd (xi_187 s) (xi_189 s)

def xi_193 (s : Site K) : Fin 4 → K :=
  _mm256_mul_pd (_mm256_mul_pd (xi_151 s) (xi_152 s)) (_mm256_set_pd ((1 / 4)) ((1 / 4)) ((1 / 4)) ((1 / 4)))

def xi_196 (s : Site K) : Fin 4 → K :=
  _mm256_mul_pd (xi_103 s) (_mm256_set_pd ((1 / 12)) ((1 / 12)) ((1 / 12)) ((1 / 12)))

def xi_206 (s : Site K) : Fin 4 → K :=
  _mm256_mul_pd (xi_153 s) (_mm256_add_pd (random_1_0 s) (_mm256_set_pd (-(1 / 2)) (-(1 / 2)) (-(1 / 2)) (-(1 / 2))))

def xi_215 (s : Site K) : Fin 4 → K :=
  _mm256_mul_pd (xi_153 s) (_mm256_add_pd (random_2_0 s) (_mm256_set_pd (-(1 / 2)) (-(1 / 2)) (-(1 / 2)) (-(1 / 2))))

def xi_219 (s : Site K) : Fin 4 → K :=
  _mm256_mul_pd (xi_107 s) (_mm256_set_pd (-(1 / 70)) (-(1 / 70)) (-(1 / 70)) (-(1 / 70)))

def xi_220 (s : Site K) : Fin 4 → K :=
  _mm256_mul_pd (xi_104 s) (_mm256_set_pd ((1 / 20)) ((1 / 20)) ((1 / 20)) ((1 / 20)))

def xi_226 (s : Site K) : Fin 4 → K :=
  _mm256_mul_pd (xi_147 s) (_mm256_set_pd ((1 / 12)) ((1 / 12)) ((1 / 12)) ((1 / 12)))

def xi_227 (s : Site K) : Fin 4 → K :=
  _mm256_mul_pd (xi_188 s) (xi_226 s)

def xi_228 (s : Site K) : Fin 4 → K :=
  _mm256_mul_pd (xi_137 s) (_mm256_set_pd ((1 / 4)) ((1 / 4)) ((1 / 4)) ((1 / 4)))

def xi_229 (s : Site K) : Fin 4 → K :=
  _mm256_mul_pd (xi_184 s) (xi_228 s)

def xi_231 (s : Site K) : Fin 4 → K :=
  _mm256_add_pd (_mm256_mul_pd (xi_103 s) (_mm256_set_pd (-(1 / 42)) (-(1 / 42)) (-(1 / 42)) (-(1 / 42)))) (_mm256_mul_pd (xi_127 s) (_mm256_set_pd (-(1 / 252)) (-(1 / 252)) (-(1 / 252)) (-(1 / 252))))

def xi_236 (s : Site K) : Fin 4 → K :=
  _mm256_mul_pd (xi_146 s) (xi_226 s)

def xi_237 (s : Site K) : Fin 4 → K :=
  _mm256_mul_pd (xi_135 s) (xi_228 s)

def xi_241 (s : Site K) : Fin 4 → K :=
  _mm256_mul_pd (xi_193 s) (_mm256_set_pd (-1) (-1) (-1) (-1))

def xi_244 (s : Site K) : Fin 4 → K :=
  _mm256_mul_pd (xi_107 s) (_mm256_set_pd ((1 / 28)) ((1 / 28)) ((1 / 28)) ((1 / 28)))

def xi_246 (s : Site K) : Fin 4 → K :=
  _mm256_mul_pd (xi_153 s) (_mm256_add_pd (random_1_1 s) (_mm256_set_pd (-(1 / 2)) (-(1 / 2)) (-(1 / 2)) (-(1 / 2))))

def xi_251 (s : Site K) : Fin 4 → K :=
  _mm256_mul_pd (xi_170 s) (xi_228 s)

def xi_252 (s : Site K) : Fin 4 → K :=
  _mm256_mul_pd (xi_174 s) (xi_226 s)

def u_0 (s : Site K) : Fin 4 → K :=
  _mm256_mul_pd (xi_11 s) (_mm256_add_pd (_mm256_add_pd (vel0Term s) (xi_14 s)) (xi_19 s))

def xi_41 (s : Site K) : Fin 4 → K :=
  _mm256_mul_pd (u_0 s) (_mm256_load_pd (fun x => s._data_force x s.ctr_1 s.ctr_2 0) s.ctr_0)

def xi_42 (s : Site K) : Fin 4 → K :=
  _mm256_mul_pd (xi_41 s) (_mm256_set_pd ((1 / 3)) ((1 / 3)) ((1 / 3)) ((1 / 3)))

def xi_48 (s : Site K) : Fin 4 → K :=
  _mm256_mul_pd (xi_42 s) (_mm256_set_pd (-1) (-1) (-1) (-1))

def xi_114 (s : Site K) : Fin 4 → K :=
  _mm256_mul_pd (rho s) ((_mm256_mul_pd (u_0 s) (u_0 s)))

def xi_165 (s : Site K) : Fin 4 → K :=
  _mm256_mul_pd (rho s) (u_0 s)

def xi_166 (s : Site K) : Fin 4 → K :=
  _mm256_add_pd (_mm256_add_pd (_mm256_mul_pd (vel0Term s) (_mm256_set_pd (-1) (-1) (-1) (-1))) (xi_165 s)) (xi_32 s)

def xi_167 (s : Site K) : Fin 4 → K :=
  _mm256_mul_pd (xi_166 s) (_mm256_set_pd (xi_133 s) (xi_133 s) (xi_133 s) (xi_133 s))

def xi_202 (s : Site K) : Fin 4 → K :=
  _mm256_mul_pd (xi_166 s) (_mm256_set_pd (xi_197 s) (xi_197 s) (xi_197 s) (xi_197 s))

def u_1 (s : Site K) : Fin 4 → K :=
  _mm256_mul_pd (xi_11 s) (_mm256_add_pd (_mm256_add_pd (_mm256_add_pd (vel1Term s) (xi_17 s)) (xi_21 s)) (xi_25 s))

def xi_43 (s : Site K) : Fin 4 → K :=
  _mm256_mul_pd (u_1 s) (_mm256_load_pd (fun x => s._data_force x s.ctr_1 s.ctr_2 1) s.ctr_0)

def xi_44 (s : Site K) : Fin 4 → K :=
  _mm256_mul_pd (xi_43 s) (_mm256_set_pd ((1 / 3)) ((1 / 3)) ((1 / 3)) ((1 / 3)))

def xi_49 (s : Site K) : Fin 4 → K :=
  _mm256_mul_pd (xi_44 s) (_mm256_set_pd (-1) (-1) (-1) (-1))

def xi_71 (s : Site K) : Fin 4 → K :=
  _mm256_mul_pd (u_1 s) (_mm256_set_pd ((1 / 2)) ((1 / 2)) ((1 / 2)) ((1 / 2)))

def xi_74 (s : Site K) : Fin 4 → K :=
  _mm256_mul_pd (_mm256_add_pd (_mm256_mul_pd (u_0 s) (xi_72 s)) (_mm256_mul_pd (xi_71 s) (_mm256_load_pd (fun x => s._data_force x s.ctr_1 s.ctr_2 0) s.ctr_0))) (_mm256_set_pd (xi_73 s) (xi_73 s) (xi_73 s) (xi_73 s))

def xi_75 (s : Site K) : Fin 4 → K :=
  _mm256_mul_pd (xi_74 s) (_mm256_set_pd (-1) (-1) (-1) (-1))

def xi_119 (s : Site K) : Fin 4 → K :=
  _mm256_mul_pd (rho s) ((_mm256_mul_pd (u_1 s) (u_1 s)))

def xi_120 (s : Site K) : Fin 4 → K :=
  _mm256_add_pd (_mm256_add_pd (xi_118 s) (xi_119 s)) (xi_20 s)

def xi_131 (s : Site K) : Fin 4 → K :=
  _mm256_mul_pd (rho s) (u_1 s)

def xi_132 (s : Site K) : Fin 4 → K :=
  _mm256_add_pd (_mm256_add_pd (_mm256_add_pd (_mm256_add_pd (_mm256_mul_pd (vel1Term s) (_mm256_set_pd (-1) (-1) (-1) (-1))) (xi_118 s)) (xi_131 s)) (xi_37 s)) (_mm256_loadu_pd (fun x => s._data_pdfs x (s.ctr_1 + 1) s.ctr_2 10) (s.ctr_0 - 1))

def xi_134 (s : Site K) : Fin 4 → K :=
  _mm256_mul_pd (xi_132 s) (_mm256_set_pd (xi_133 s) (xi_133 s) (xi_133 s) (xi_133 s))

def xi_198 (s : Site K) : Fin 4 → K :=
  _mm256_mul_pd (xi_132 s) (_mm256_set_pd (xi_197 s) (xi_197 s) (xi_197 s) (xi_197 s))

def u_2 (s : Site K) : Fin 4 → K :=
  _mm256_mul_pd (xi_11 s) (_mm256_add_pd (_mm256_add_pd (_mm256_add_pd (vel2Term s) (xi_27 s)) (xi_30 s)) (_mm256_loadu_pd (fun x => s._data_pdfs x s.ctr_1 (s.ctr_2 - 1) 14) (s.ctr_0 - 1)))

def xi_45 (s : Site K) : Fin 4 → K :=
  _mm256_mul_pd (u_2 s) (_mm256_load_pd (fun x => s._data_force x s.ctr_1 s.ctr_2 2) s.ctr_0)

def xi_46 (s : Site K) : Fin 4 → K :=
  _mm256_mul_pd (xi_45 s) (_mm256_set_pd ((1 / 3)) ((1 / 3)) ((1 / 3)) ((1 / 3)))

def xi_47 (s : Site K) : Fin 4 → K :=
  _mm256_mul_pd (_mm256_add_pd (_mm256_add_pd (xi_42 s) (xi_44 s)) (xi_46 s)) (_mm256_set_pd (xi_40 s + 2) (xi_40 s + 2) (xi_40 s + 2) (xi_40 s + 2))

def xi_50 (s : Site K) : Fin 4 → K :=
  _mm256_add_pd (_mm256_add_pd (_mm256_mul_pd (xi_45 s) (_mm256_set_pd ((2 / 3)) ((2 / 3)) ((2 / 3)) ((2 / 3)))) (xi_48 s)) (xi_49 s)

def xi_54 (s : Site K) : Fin 4 → K :=
  _mm256_mul_pd (xi_46 s) (_mm256_set_pd (-1) (-1) (-1) (-1))

def xi_55 (s : Site K) : Fin 4 → K :=
  _mm256_add_pd (_mm256_add_pd (_mm256_mul_pd (xi_43 s) (_mm256_set_pd ((2 / 3)) ((2 / 3)) ((2 / 3)) ((2 / 3)))) (xi_48 s)) (xi_54 s)

def xi_56 (s : Site K) : Fin 4 → K :=
  _mm256_add_pd (_mm256_add_pd (_mm256_mul_pd (xi_41 s) (_mm256_set_pd ((2 / 3)) ((2 / 3)) ((2 / 3)) ((2 / 3)))) (xi_49 s)) (xi_54 s)

def xi_59 (s : Site K) : Fin 4 → K :=
  _mm256_mul_pd (xi_50 s) (_mm256_set_pd (xi_58 s) (xi_58 s) (xi_58 s) (xi_58 s))

def xi_60 (s : Site K) : Fin 4 → K :=
  _mm256_mul_pd (xi_59 s) (_mm256_set_pd (-1) (-1) (-1) (-1))

def xi_61 (s : Site K) : Fin 4 → K :=
  _mm256_mul_pd (xi_56 s) (_mm256_set_pd (xi_58 s) (xi_58 s) (xi_58 s) (xi_58 s))

def xi_62 (s : Site K) : Fin 4 → K :=
  _mm256_mul_pd (xi_61 s) (_mm256_set_pd (-1) (-1) (-1) (-1))

def xi_64 (s : Site K) : Fin 4 → K :=
  _mm256_add_pd (_mm256_add_pd (_mm256_mul_pd (xi_55 s) (_mm256_set_pd (xi_63 s) (xi_63 s) (xi_63 s) (xi_63 s))) (xi_60 s)) (xi_62 s)

def xi_66 (s : Site K) : Fin 4 → K :=
  _mm256_mul_pd (xi_55 s) (_mm256_set_pd (xi_58 s) (xi_58 s) (xi_58 s) (xi_58 s))

def xi_67 (s : Site K) : Fin 4 → K :=
  _mm256_mul_pd (xi_66 s) (_mm256_set_pd (-1) (-1) (-1) (-1))

def xi_68 (s : Site K) : Fin 4 → K :=
  _mm256_add_pd (_mm256_add_pd (_mm256_mul_pd (xi_56 s) (_mm256_set_pd (xi_63 s) (xi_63 s) (xi_63 s) (xi_63 s))) (xi_60 s)) (xi_67 s)

def xi_70 (s : Site K) : Fin 4 → K :=
  _mm256_add_pd (_mm256_add_pd (_mm256_mul_pd (xi_50 s) (_mm256_set_pd (xi_63 s) (xi_63 s) (xi_63 s) (xi_63 s))) (xi_62 s)) (xi_67 s)

def xi_77 (s : Site K) : Fin 4 → K :=
  _mm256_add_pd (_mm256_mul_pd (xi_76 s) (_mm256_set_pd (-1) (-1) (-1) (-1))) (xi_61 s)

def xi_79 (s : Site K) : Fin 4 → K :=
  _mm256_mul_pd (_mm256_mul_pd (xi_50 s) (_mm256_set_pd (-1) (-1) (-1) (-1))) (_mm256_set_pd (xi_78 s) (xi_78 s) (xi_78 s) (xi_78 s))

def xi_81 (s : Site K) : Fin 4 → K :=
  _mm256_mul_pd (xi_47 s) (_mm256_set_pd ((1 / 8)) ((1 / 8)) ((1 / 8)) ((1 / 8)))

def xi_82 (s : Site K) : Fin 4 → K :=
  _mm256_add_pd (xi_66 s) (xi_81 s)

def xi_83 (s : Site K) : Fin 4 → K :=
  _mm256_add_pd (xi_80 s) (xi_82 s)

def xi_84 (s : Site K) : Fin 4 → K :=
  _mm256_add_pd (xi_79 s) (xi_83 s)

def xi_85 (s : Site K) : Fin 4 → K :=
  _mm256_add_pd (xi_61 s) (xi_76 s)

def xi_86 (s : Site K) : Fin 4 → K :=
  _mm256_add_pd (_mm256_mul_pd (xi_80 s) (_mm256_set_pd (-1) (-1) (-1) (-1))) (xi_82 s)

def xi_87 (s : Site K) : Fin 4 → K :=
  _mm256_add_pd (xi_79 s) (xi_86 s)

def xi_88 (s : Site K) : Fin 4 → K :=
  _mm256_mul_pd (_mm256_add_pd (_mm256_mul_pd (u_2 s) (xi_72 s)) (_mm256_mul_pd (xi_71 s) (_mm256_load_pd (fun x => s._data_force x s.ctr_1 s.ctr_2 2) s.ctr_0))) (_mm256_set_pd (xi_73 s) (xi_73 s) (xi_73 s) (xi_73 s))

def xi_89 (s : Site K) : Fin 4 → K :=
  _mm256_mul_pd (_mm256_mul_pd (xi_56 s) (_mm256_set_pd (-1) (-1) (-1) (-1))) (_mm256_set_pd (xi_78 s) (xi_78 s) (xi_78 s) (xi_78 s))

def xi_91 (s : Site K) : Fin 4 → K :=
  _mm256_add_pd (xi_59 s) (xi_90 s)

def xi_92 (s : Site K) : Fin 4 → K :=
  _mm256_add_pd (xi_89 s) (xi_91 s)

def xi_93 (s : Site K) : Fin 4 → K :=
  _mm256_mul_pd (xi_88 s) (_mm256_set_pd (-1) (-1) (-1) (-1))

def xi_94 (s : Site K) : Fin 4 → K :=
  _mm256_mul_pd (_mm256_add_pd (_mm256_mul_pd (_mm256_mul_pd (u_0 s) (_mm256_set_pd ((1 / 2)) ((1 / 2)) ((1 / 2)) ((1 / 2)))) (_mm256_load_pd (fun x => s._data_force x s.ctr_1 s.ctr_2 2) s.ctr_0)) (_mm256_mul_pd (_mm256_mul_pd (u_2 s) (_mm256_set_pd ((1 / 2)) ((1 / 2)) ((1 / 2)) ((1 / 2)))) (_mm256_load_pd (fun x => s._data_force x s.ctr_1 s.ctr_2 0) s.ctr_0))) (_mm256_set_pd (xi_73 s) (xi_73 s) (xi_73 s) (xi_73 s))

def xi_95 (s : Site K) : Fin 4 → K :=
  _mm256_mul_pd (xi_94 s) (_mm256_set_pd (-1) (-1) (-1) (-1))

def xi_96 (s : Site K) : Fin 4 → K :=
  _mm256_mul_pd (_mm256_mul_pd (xi_55 s) (_mm256_set_pd (-1) (-1) (-1) (-1))) (_mm256_set_pd (xi_78 s) (xi_78 s) (xi_78 s) (xi_78 s))

def xi_97 (s : Site K) : Fin 4 → K :=
  _mm256_add_pd (_mm256_add_pd (xi_81 s) (xi_91 s)) (xi_96 s)

def xi_98 (s : Site K) : Fin 4 → K :=
  _mm256_add_pd (_mm256_mul_pd (xi_90 s) (_mm256_set_pd (-1) (-1) (-1) (-1))) (xi_59 s)

def xi_99 (s : Site K) : Fin 4 → K :=
  _mm256_add_pd (xi_89 s) (xi_98 s)

def xi_100 (s : Site K) : Fin 4 → K :=
  _mm256_add_pd (_mm256_add_pd (xi_81 s) (xi_96 s)) (xi_98 s)

def xi_115 (s : Site K) : Fin 4 → K :=
  _mm256_mul_pd (rho s) ((_mm256_mul_pd (u_2 s) (u_2 s)))

def xi_123 (s : Site K) : Fin 4 → K :=
  _mm256_mul_pd (_mm256_add_pd (_mm256_add_pd (_mm256_add_pd (_mm256_add_pd (_mm256_add_pd (_mm256_add_pd (_mm256_add_pd (xi_114 s) (xi_115 s)) (xi_117 s)) (xi_120 s)) (xi_122 s)) (xi_24 s)) (xi_28 s)) (_mm256_load_pd (fun x => s._data_pdfs x s.ctr_1 s.ctr_2 0) s.ctr_0)) (_mm256_set_pd (s.omega_bulk) (s.omega_bulk) (s.omega_bulk) (s.omega_bulk))

def xi_155 (s : Site K) : Fin 4 → K :=
  _mm256_add_pd (_mm256_add_pd (_mm256_mul_pd (xi_115 s) (_mm256_set_pd (-1) (-1) (-1) (-1))) (_mm256_load_pd (fun x => s._data_pdfs x s.ctr_1 (s.ctr_2 + 1) 6) s.ctr_0)) (_mm256_load_pd (fun x => s._data_pdfs x s.ctr_1 (s.ctr_2 - 1) 5) s.ctr_0)

def xi_156 (s : Site K) : Fin 4 → K :=
  _mm256_mul_pd (_mm256_add_pd (_mm256_add_pd (_mm256_add_pd (_mm256_add_pd (_mm256_add_pd (_mm256_add_pd (_mm256_mul_pd (_mm256_set_pd (-1) (-1) (-1) (-1)) (_mm256_load_pd (fun x => s._data_pdfs x (s.ctr_1 - 1) s.ctr_2 1) s.ctr_0)) (xi_1 s)) (xi_120 s)) (xi_155 s)) (xi_18 s)) (xi_23 s)) (xi_31 s)) (_mm256_set_pd (s.omega_shear) (s.omega_shear) (s.omega_shear) (s.omega_shear))

def xi_157 (s : Site K) : Fin 4 → K :=
  _mm256_mul_pd (xi_156 s) (_mm256_set_pd ((1 / 8)) ((1 / 8)) ((1 / 8)) ((1 / 8)))

def xi_159 (s : Site K) : Fin 4 → K :=
  _mm256_mul_pd (_mm256_add_pd (_mm256_add_pd (_mm256_add_pd (_mm256_add_pd (_mm256_add_pd (_mm256_add_pd (_mm256_add_pd (_mm256_add_pd (_mm256_add_pd (_mm256_add_pd (_mm256_mul_pd (xi_114 s) (_mm256_set_pd (2) (2) (2) (2))) (_mm256_mul_pd (xi_119 s) (_mm256_set_pd (-1) (-1) (-1) (-1)))) (_mm256_mul_pd (_mm256_set_pd (-2) (-2) (-2) (-2)) (_mm256_loadu_pd (fun x => s._data_pdfs x s.ctr_1 s.ctr_2 3) (s.ctr_0 + 1)))) (_mm256_mul_pd (_mm256_set_pd (-2) (-2) (-2) (-2)) (_mm256_loadu_pd (fun x => s._data_pdfs x s.ctr_1 s.ctr_2 4) (s.ctr_0 - 1)))) (xi_111 s)) (xi_118 s)) (xi_122 s)) (xi_155 s)) (xi_20 s)) (_mm256_load_pd (fun x => s._data_pdfs x (s.ctr_1 - 1) s.ctr_2 1) s.ctr_0)) (_mm256_load_pd (fun x => s._data_pdfs x (s.ctr_1 + 1) s.ctr_2 2) s.ctr_0)) (_mm256_set_pd (s.omega_shear) (s.omega_shear) (s.omega_shear) (s.omega_shear))

def xi_161 (s : Site K) : Fin 4 → K :=
  _mm256_add_pd (_mm256_mul_pd (xi_159 s) (_mm256_set_pd (-(1 / 24)) (-(1 / 24)) (-(1 / 24)) (-(1 / 24)))) (_mm256_mul_pd (xi_160 s) (_mm256_set_pd (-(1 / 6)) (-(1 / 6)) (-(1 / 6)) (-(1 / 6))))

def xi_162 (s : Site K) : Fin 4 → K :=
  _mm256_add_pd (_mm256_add_pd (_mm256_mul_pd (xi_104 s) (_mm256_set_pd (-(1 / 10)) (-(1 / 10)) (-(1 / 10)) (-(1 / 10)))) (_mm256_mul_pd (xi_110 s) (_mm256_set_pd (-(1 / 20)) (-(1 / 20)) (-(1 / 20)) (-(1 / 20))))) (xi_161 s)

def xi_163 (s : Site K) : Fin 4 → K :=
  _mm256_add_pd (_mm256_add_pd (_mm256_add_pd (_mm256_add_pd (_mm256_add_pd (_mm256_mul_pd (xi_107 s) (_mm256_set_pd ((1 / 35)) ((1 / 35)) ((1 / 35)) ((1 / 35)))) (_mm256_mul_pd (xi_113 s) (_mm256_set_pd ((1 / 70)) ((1 / 70)) ((1 / 70)) ((1 / 70))))) (xi_154 s)) (xi_157 s)) (xi_158 s)) (xi_162 s)

def xi_177 (s : Site K) : Fin 4 → K :=
  _mm256_add_pd (_mm256_add_pd (_mm256_add_pd (_mm256_add_pd (_mm256_mul_pd (xi_107 s) (_mm256_set_pd (-(1 / 14)) (-(1 / 14)) (-(1 / 14)) (-(1 / 14)))) (_mm256_mul_pd (xi_113 s) (_mm256_set_pd (-(1 / 28)) (-(1 / 28)) (-(1 / 28)) (-(1 / 28))))) (_mm256_mul_pd (xi_159 s) (_mm256_set_pd ((1 / 12)) ((1 / 12)) ((1 / 12)) ((1 / 12))))) (_mm256_mul_pd (xi_160 s) (_mm256_set_pd ((1 / 3)) ((1 / 3)) ((1 / 3)) ((1 / 3))))) (xi_158 s)

def xi_182 (s : Site K) : Fin 4 → K :=
  _mm256_add_pd (_mm256_add_pd (_mm256_add_pd (_mm256_add_pd (_mm256_add_pd (_mm256_add_pd (_mm256_mul_pd (rho s) (u_2 s)) (_mm256_mul_pd (vel2Term s) (_mm256_set_pd (-1) (-1) (-1) (-1)))) (xi_10 s)) (xi_116 s)) (xi_121 s)) (xi_179 s)) (_mm256_loadu_pd (fun x => s._data_pdfs x s.ctr_1 (s.ctr_2 + 1) 18) (s.ctr_0 - 1))

def xi_183 (s : Site K) : Fin 4 → K :=
  _mm256_mul_pd (xi_182 s) (_mm256_set_pd (xi_133 s) (xi_133 s) (xi_133 s) (xi_133 s))

def xi_191 (s : Site K) : Fin 4 → K :=
  _mm256_add_pd (_mm256_add_pd (_mm256_add_pd (_mm256_add_pd (_mm256_add_pd (_mm256_add_pd (_mm256_mul_pd (xi_103 s) (_mm256_set_pd ((2 / 21)) ((2 / 21)) ((2 / 21)) ((2 / 21)))) (_mm256_mul_pd (xi_107 s) (_mm256_set_pd (-(3 / 70)) (-(3 / 70)) (-(3 / 70)) (-(3 / 70))))) (_mm256_mul_pd (xi_113 s) (_mm256_set_pd (-(3 / 140)) (-(3 / 140)) (-(3 / 140)) (-(3 / 140))))) (_mm256_mul_pd (xi_127 s) (_mm256_set_pd ((1 / 63)) ((1 / 63)) ((1 / 63)) ((1 / 63))))) (_mm256_mul_pd (xi_154 s) (_mm256_set_pd (-1) (-1) (-1) (-1)))) (_mm256_mul_pd (xi_157 s) (_mm256_set_pd (-1) (-1) (-1) (-1)))) (xi_162 s)

def xi_194 (s : Site K) : Fin 4 → K :=
  _mm256_mul_pd (xi_156 s) (_mm256_set_pd ((1 / 16)) ((1 / 16)) ((1 / 16)) ((1 / 16)))

def xi_199 (s : Site K) : Fin 4 → K :=
  _mm256_add_pd (_mm256_mul_pd (xi_106 s) (_mm256_set_pd ((1 / 12)) ((1 / 12)) ((1 / 12)) ((1 / 12)))) (_mm256_mul_pd (xi_123 s) (_mm256_set_pd ((1 / 24)) ((1 / 24)) ((1 / 24)) ((1 / 24))))

def xi_200 (s : Site K) : Fin 4 → K :=
  _mm256_add_pd (xi_198 s) (xi_199 s)

def xi_201 (s : Site K) : Fin 4 → K :=
  _mm256_add_pd (_mm256_add_pd (_mm256_add_pd (_mm256_add_pd (_mm256_add_pd (xi_164 s) (xi_193 s)) (xi_194 s)) (xi_195 s)) (xi_196 s)) (xi_200 s)

def xi_203 (s : Site K) : Fin 4 → K :=
  _mm256_add_pd (_mm256_mul_pd (xi_159 s) (_mm256_set_pd ((1 / 48)) ((1 / 48)) ((1 / 48)) ((1 / 48)))) (_mm256_mul_pd (xi_160 s) (_mm256_set_pd ((1 / 12)) ((1 / 12)) ((1 / 12)) ((1 / 12))))

def xi_204 (s : Site K) : Fin 4 → K :=
  _mm256_add_pd (_mm256_mul_pd (xi_202 s) (_mm256_set_pd (-1) (-1) (-1) (-1))) (xi_203 s)

def xi_205 (s : Site K) : Fin 4 → K :=
  _mm256_add_pd (xi_178 s) (xi_204 s)

def xi_211 (s : Site K) : Fin 4 → K :=
  _mm256_add_pd (xi_202 s) (xi_203 s)

def xi_212 (s : Site K) : Fin 4 → K :=
  _mm256_add_pd (xi_176 s) (xi_211 s)

def xi_213 (s : Site K) : Fin 4 → K :=
  _mm256_add_pd (_mm256_mul_pd (xi_198 s) (_mm256_set_pd (-1) (-1) (-1) (-1))) (xi_199 s)

def xi_214 (s : Site K) : Fin 4 → K :=
  _mm256_add_pd (_mm256_add_pd (_mm256_add_pd (_mm256_add_pd (_mm256_add_pd (xi_150 s) (xi_193 s)) (xi_194 s)) (xi_195 s)) (xi_196 s)) (xi_213 s)

def xi_230 (s : Site K) : Fin 4 → K :=
  _mm256_mul_pd (xi_182 s) (_mm256_set_pd (xi_197 s) (xi_197 s) (xi_197 s) (xi_197 s))

def xi_232 (s : Site K) : Fin 4 → K :=
  _mm256_add_pd (xi_230 s) (xi_231 s)

def xi_233 (s : Site K) : Fin 4 → K :=
  _mm256_add_pd (_mm256_add_pd (_mm256_add_pd (_mm256_add_pd (_mm256_mul_pd (xi_223 s) (_mm256_set_pd (-1) (-1) (-1) (-1))) (_mm256_mul_pd (xi_227 s) (_mm256_set_pd (-1) (-1) (-1) (-1)))) (xi_225 s)) (xi_229 s)) (xi_232 s)

def xi_238 (s : Site K) : Fin 4 → K :=
  _mm256_add_pd (_mm256_add_pd (_mm256_add_pd (_mm256_add_pd (_mm256_mul_pd (xi_234 s) (_mm256_set_pd (-1) (-1) (-1) (-1))) (_mm256_mul_pd (xi_236 s) (_mm256_set_pd (-1) (-1) (-1) (-1)))) (xi_200 s)) (xi_235 s)) (xi_237 s)

def xi_239 (s : Site K) : Fin 4 → K :=
  _mm256_add_pd (_mm256_add_pd (_mm256_add_pd (_mm256_add_pd (_mm256_mul_pd (xi_235 s) (_mm256_set_pd (-1) (-1) (-1) (-1))) (_mm256_mul_pd (xi_237 s) (_mm256_set_pd (-1) (-1) (-1) (-1)))) (xi_213 s)) (xi_234 s)) (xi_236 s)

def xi_242 (s : Site K) : Fin 4 → K :=
  _mm256_mul_pd (xi_194 s) (_mm256_set_pd (-1) (-1) (-1) (-1))

def xi_245 (s : Site K) : Fin 4 → K :=
  _mm256_add_pd (_mm256_add_pd (_mm256_add_pd (_mm256_add_pd (_mm256_add_pd (_mm256_add_pd (xi_192 s) (xi_199 s)) (xi_232 s)) (xi_241 s)) (xi_242 s)) (xi_243 s)) (xi_244 s)

def xi_253 (s : Site K) : Fin 4 → K :=
  _mm256_add_pd (_mm256_add_pd (_mm256_add_pd (_mm256_add_pd (_mm256_mul_pd (xi_249 s) (_mm256_set_pd (-1) (-1) (-1) (-1))) (_mm256_mul_pd (xi_251 s) (_mm256_set_pd (-1) (-1) (-1) (-1)))) (xi_204 s)) (xi_250 s)) (xi_252 s)

def xi_255 (s : Site K) : Fin 4 → K :=
  _mm256_add_pd (_mm256_add_pd (_mm256_add_pd (_mm256_add_pd (_mm256_mul_pd (xi_250 s) (_mm256_set_pd (-1) (-1) (-1) (-1))) (_mm256_mul_pd (xi_252 s) (_mm256_set_pd (-1) (-1) (-1) (-1)))) (xi_211 s)) (xi_249 s)) (xi_251 s)

def xi_256 (s : Site K) : Fin 4 → K :=
  _mm256_add_pd (_mm256_mul_pd (xi_230 s) (_mm256_set_pd (-1) (-1) (-1) (-1))) (xi_231 s)

def xi_257 (s : Site K) : Fin 4 → K :=
  _mm256_add_pd (_mm256_add_pd (_mm256_add_pd (_mm256_add_pd (_mm256_mul_pd (xi_225 s) (_mm256_set_pd (-1) (-1) (-1) (-1))) (_mm256_mul_pd (xi_229 s) (_mm256_set_pd (-1) (-1) (-1) (-1)))) (xi_223 s)) (xi_227 s)) (xi_256 s)

def xi_258 (s : Site K) : Fin 4 → K :=
  _mm256_add_pd (_mm256_add_pd (_mm256_add_pd (_mm256_add_pd (_mm256_add_pd (_mm256_add_pd (xi_190 s) (xi_199 s)) (xi_241 s)) (xi_242 s)) (xi_243 s)) (xi_244 s)) (xi_256 s)

def p_0 (s : Site K) : Fin 4 → K :=
  _mm256_add_pd (xi_2 s) (xi_32 s)

def p_1 (s : Site K) : Fin 4 → K :=
  xi_33 s

def xi_208 (s : Site K) : Fin 4 → K :=
  _mm256_mul_pd (_mm256_add_pd (_mm256_mul_pd (p_1 s) (_mm256_set_pd (-1) (-1) (-1) (-1))) (_mm256_mul_pd (u_0 s) (xi_131 s))) (_mm256_set_pd (xi_207 s) (xi_207 s) (xi_207 s) (xi_207 s))

def xi_209 (s : Site K) : Fin 4 → K :=
  _mm256_add_pd (_mm256_mul_pd (xi_206 s) (_mm256_set_pd (-1) (-1) (-1) (-1))) (_mm256_mul_pd (xi_208 s) (_mm256_set_pd (-1) (-1) (-1) (-1)))

def xi_210 (s : Site K) : Fin 4 → K :=
  _mm256_add_pd (xi_206 s) (xi_208 s)

def p_2 (s : Site K) : Fin 4 → K :=
  xi_36 s

def xi_247 (s : Site K) : Fin 4 → K :=
  _mm256_mul_pd (_mm256_add_pd (_mm256_mul_pd (p_2 s) (_mm256_set_pd (-1) (-1) (-1) (-1))) (_mm256_mul_pd (u_2 s) (xi_165 s))) (_mm256_set_pd (xi_207 s) (xi_207 s) (xi_207 s) (xi_207 s))

def xi_248 (s : Site K) : Fin 4 → K :=
  _mm256_add_pd (_mm256_mul_pd (xi_246 s) (_mm256_set_pd (-1) (-1) (-1) (-1))) (_mm256_mul_pd (xi_247 s) (_mm256_set_pd (-1) (-1) (-1) (-1)))

def xi_254 (s : Site K) : Fin 4 → K :=
  _mm256_add_pd (xi_246 s) (xi_247 s)

def p_3 (s : Site K) : Fin 4 → K :=
  xi_33 s

def p_4 (s : Site K) : Fin 4 → K :=
  _mm256_add_pd (_mm256_add_pd (xi_0 s) (xi_37 s)) (xi_5 s)

def p_5 (s : Site K) : Fin 4 → K :=
  xi_39 s

def xi_217 (s : Site K) : Fin 4 → K :=
  _mm256_mul_pd (_mm256_add_pd (_mm256_mul_pd (p_5 s) (_mm256_set_pd (-1) (-1) (-1) (-1))) (_mm256_mul_pd (u_2 s) (xi_131 s))) (_mm256_set_pd (xi_207 s) (xi_207 s) (xi_207 s) (xi_207 s))

def xi_221 (s : Site K) : Fin 4 → K :=
  _mm256_add_pd (_mm256_add_pd (_mm256_add_pd (_mm256_add_pd (_mm256_add_pd (_mm256_add_pd (xi_161 s) (xi_215 s)) (xi_216 s)) (xi_217 s)) (xi_218 s)) (xi_219 s)) (xi_220 s)

def xi_240 (s : Site K) : Fin 4 → K :=
  _mm256_add_pd (_mm256_add_pd (_mm256_add_pd (_mm256_add_pd (_mm256_add_pd (_mm256_add_pd (_mm256_mul_pd (xi_215 s) (_mm256_set_pd (-1) (-1) (-1) (-1))) (_mm256_mul_pd (xi_217 s) (_mm256_set_pd (-1) (-1) (-1) (-1)))) (xi_161 s)) (xi_216 s)) (xi_218 s)) (xi_219 s)) (xi_220 s)

def p_6 (s : Site K) : Fin 4 → K :=
  xi_36 s

def p_7 (s : Site K) : Fin 4 → K :=
  xi_39 s

def p_8 (s : Site K) : Fin 4 → K :=
  _mm256_add_pd (_mm256_add_pd (_mm256_add_pd (_mm256_add_pd (xi_1 s) (xi_10 s)) (xi_3 s)) (xi_7 s)) (_mm256_load_pd (fun x => s._data_pdfs x (s.ctr_1 + 1) (s.ctr_2 + 1) 16) s.ctr_0)

def forceTerm_0 (s : Site K) : Fin 4 → K :=
  _mm256_add_pd (_mm256_add_pd (_mm256_add_pd (_mm256_mul_pd (xi_47 s) (_mm256_set_pd (-(3 / 2)) (-(3 / 2)) (-(3 / 2)) (-(3 / 2)))) (_mm256_mul_pd (_mm256_mul_pd (xi_50 s) (_mm256_set_pd (-1) (-1) (-1) (-1))) (_mm256_set_pd (xi_53 s) (xi_53 s) (xi_53 s) (xi_53 s)))) (_mm256_mul_pd (_mm256_mul_pd (xi_55 s) (_mm256_set_pd (-1) (-1) (-1) (-1))) (_mm256_set_pd (xi_53 s) (xi_53 s) (xi_53 s) (xi_53 s)))) (_mm256_mul_pd (_mm256_mul_pd (xi_56 s) (_mm256_set_pd (-1) (-1) (-1) (-1))) (_mm256_set_pd (xi_53 s) (xi_53 s) (xi_53 s) (xi_53 s)))

def forceTerm_1 (s : Site K) : Fin 4 → K :=
  _mm256_add_pd (xi_57 s) (xi_64 s)

def forceTerm_2 (s : Site K) : Fin 4 → K :=
  _mm256_add_pd (_mm256_mul_pd (xi_57 s) (_mm256_set_pd (-1) (-1) (-1) (-1))) (xi_64 s)

def forceTerm_3 (s : Site K) : Fin 4 → K :=
  _mm256_add_pd (_mm256_mul_pd (xi_65 s) (_mm256_set_pd (-1) (-1) (-1) (-1))) (xi_68 s)

def forceTerm_4 (s : Site K) : Fin 4 → K :=
  _mm256_add_pd (xi_65 s) (xi_68 s)

def forceTerm_5 (s : Site K) : Fin 4 → K :=
  _mm256_add_pd (xi_69 s) (xi_70 s)

def forceTerm_6 (s : Site K) : Fin 4 → K :=
  _mm256_add_pd (_mm256_mul_pd (xi_69 s) (_mm256_set_pd (-1) (-1) (-1) (-1))) (xi_70 s)

def forceTerm_7 (s : Site K) : Fin 4 → K :=
  _mm256_add_pd (_mm256_add_pd (xi_75 s) (xi_77 s)) (xi_84 s)

def forceTerm_8 (s : Site K) : Fin 4 → K :=
  _mm256_add_pd (_mm256_add_pd (xi_74 s) (xi_84 s)) (xi_85 s)

def forceTerm_9 (s : Site K) : Fin 4 → K :=
  _mm256_add_pd (_mm256_add_pd (xi_74 s) (xi_77 s)) (xi_87 s)

def forceTerm_10 (s : Site K) : Fin 4 → K :=
  _mm256_add_pd (_mm256_add_pd (xi_75 s) (xi_85 s)) (xi_87 s)

def forceTerm_11 (s : Site K) : Fin 4 → K :=
  _mm256_add_pd (_mm256_add_pd (xi_83 s) (xi_88 s)) (xi_92 s)

def forceTerm_12 (s : Site K) : Fin 4 → K :=
  _mm256_add_pd (_mm256_add_pd (xi_86 s) (xi_92 s)) (xi_93 s)

def forceTerm_13 (s : Site K) : Fin 4 → K :=
  _mm256_add_pd (_mm256_add_pd (xi_77 s) (xi_95 s)) (xi_97 s)

def forceTerm_14 (s : Site K) : Fin 4 → K :=
  _mm256_add_pd (_mm256_add_pd (xi_85 s) (xi_94 s)) (xi_97 s)

def forceTerm_15 (s : Site K) : Fin 4 → K :=
  _mm256_add_pd (_mm256_add_pd (xi_83 s) (xi_93 s)) (xi_99 s)

def forceTerm_16 (s : Site K) : Fin 4 → K :=
  _mm256_add_pd (_mm256_add_pd (xi_86 s) (xi_88 s)) (xi_99 s)

def forceTerm_17 (s : Site K) : Fin 4 → K :=
  _mm256_add_pd (_mm256_add_pd (xi_100 s) (xi_77 s)) (xi_94 s)

def forceTerm_18 (s : Site K) : Fin 4 → K :=
  _mm256_add_pd (_mm256_add_pd (xi_100 s) (xi_85 s)) (xi_95 s)

def store_0 (s : Site K) : Fin 4 → K :=
  _mm256_add_pd (_mm256_add_pd (_mm256_add_pd (_mm256_add_pd (_mm256_add_pd (_mm256_add_pd (_mm256_add_pd (_mm256_add_pd (_mm256_add_pd (_mm256_mul_pd (xi_103 s) (_mm256_set_pd ((1 / 7)) ((1 / 7)) ((1 / 7)) ((1 / 7)))) (_mm256_mul_pd (xi_104 s) (_mm256_set_pd ((1 / 5)) ((1 / 5)) ((1 / 5)) ((1 / 5))))) (_mm256_mul_pd (xi_106 s) (_mm256_set_pd (-1) (-1) (-1) (-1)))) (_mm256_mul_pd (xi_107 s) (_mm256_set_pd ((3 / 35)) ((3 / 35)) ((3 / 35)) ((3 / 35))))) (_mm256_mul_pd (xi_110 s) (_mm256_set_pd ((1 / 10)) ((1 / 10)) ((1 / 10)) ((1 / 10))))) (_mm256_mul_pd (xi_113 s) (_mm256_set_pd ((3 / 70)) ((3 / 70)) ((3 / 70)) ((3 / 70))))) (_mm256_mul_pd (xi_123 s) (_mm256_set_pd (-(1 / 2)) (-(1 / 2)) (-(1 / 2)) (-(1 / 2))))) (_mm256_mul_pd (xi_127 s) (_mm256_set_pd ((1 / 42)) ((1 / 42)) ((1 / 42)) ((1 / 42))))) (forceTerm_0 s)) (_mm256_load_pd (fun x => s._data_pdfs x s.ctr_1 s.ctr_2 0) s.ctr_0)

def store_1 (s : Site K) : Fin 4 → K :=
  _mm256_add_pd (_mm256_add_pd (_mm256_add_pd (_mm256_add_pd (_mm256_add_pd (_mm256_add_pd (_mm256_mul_pd (xi_130 s) (_mm256_set_pd (-1) (-1) (-1) (-1))) (_mm256_mul_pd (xi_139 s) (_mm256_set_pd (-1) (-1) (-1) (-1)))) (forceTerm_1 s)) (xi_134 s)) (xi_150 s)) (xi_163 s)) (_mm256_load_pd (fun x => s._data_pdfs x (s.ctr_1 - 1) s.ctr_2 1) s.ctr_0)

def store_2 (s : Site K) : Fin 4 → K :=
  _mm256_add_pd (_mm256_add_pd (_mm256_add_pd (_mm256_add_pd (_mm256_add_pd (_mm256_add_pd (_mm256_mul_pd (xi_134 s) (_mm256_set_pd (-1) (-1) (-1) (-1))) (forceTerm_2 s)) (xi_130 s)) (xi_139 s)) (xi_163 s)) (xi_164 s)) (_mm256_load_pd (fun x => s._data_pdfs x (s.ctr_1 + 1) s.ctr_2 2) s.ctr_0)

def store_3 (s : Site K) : Fin 4 → K :=
  _mm256_add_pd (_mm256_add_pd (_mm256_add_pd (_mm256_add_pd (_mm256_add_pd (_mm256_add_pd (_mm256_mul_pd (xi_167 s) (_mm256_set_pd (-1) (-1) (-1) (-1))) (forceTerm_3 s)) (xi_169 s)) (xi_171 s)) (xi_176 s)) (xi_177 s)) (_mm256_loadu_pd (fun x => s._data_pdfs x s.ctr_1 s.ctr_2 3) (s.ctr_0 + 1))

def store_4 (s : Site K) : Fin 4 → K :=
  _mm256_add_pd (_mm256_add_pd (_mm256_add_pd (_mm256_add_pd (_mm256_add_pd (_mm256_add_pd (_mm256_mul_pd (xi_169 s) (_mm256_set_pd (-1) (-1) (-1) (-1))) (_mm256_mul_pd (xi_171 s) (_mm256_set_pd (-1) (-1) (-1) (-1)))) (forceTerm_4 s)) (xi_167 s)) (xi_177 s)) (xi_178 s)) (_mm256_loadu_pd (fun x => s._data_pdfs x s.ctr_1 s.ctr_2 4) (s.ctr_0 - 1))

def store_5 (s : Site K) : Fin 4 → K :=
  _mm256_add_pd (_mm256_add_pd (_mm256_add_pd (_mm256_add_pd (_mm256_add_pd (_mm256_add_pd (_mm256_mul_pd (xi_181 s) (_mm256_set_pd (-1) (-1) (-1) (-1))) (_mm256_mul_pd (xi_185 s) (_mm256_set_pd (-1) (-1) (-1) (-1)))) (forceTerm_5 s)) (xi_183 s)) (xi_190 s)) (xi_191 s)) (_mm256_load_pd (fun x => s._data_pdfs x s.ctr_1 (s.ctr_2 - 1) 5) s.ctr_0)

def store_6 (s : Site K) : Fin 4 → K :=
  _mm256_add_pd (_mm256_add_pd (_mm256_add_pd (_mm256_add_pd (_mm256_add_pd (_mm256_add_pd (_mm256_mul_pd (xi_183 s) (_mm256_set_pd (-1) (-1) (-1) (-1))) (forceTerm_6 s)) (xi_181 s)) (xi_185 s)) (xi_191 s)) (xi_192 s)) (_mm256_load_pd (fun x => s._data_pdfs x s.ctr_1 (s.ctr_2 + 1) 6) s.ctr_0)

def store_7 (s : Site K) : Fin 4 → K :=
  _mm256_add_pd (_mm256_add_pd (_mm256_add_pd (_mm256_add_pd (forceTerm_7 s) (xi_201 s)) (xi_205 s)) (xi_209 s)) (_mm256_loadu_pd (fun x => s._data_pdfs x (s.ctr_1 - 1) s.ctr_2 7) (s.ctr_0 + 1))

def store_8 (s : Site K) : Fin 4 → K :=
  _mm256_add_pd (_mm256_add_pd (_mm256_add_pd (_mm256_add_pd (forceTerm_8 s) (xi_201 s)) (xi_210 s)) (xi_212 s)) (_mm256_loadu_pd (fun x => s._data_pdfs x (s.ctr_1 - 1) s.ctr_2 8) (s.ctr_0 - 1))

def store_9 (s : Site K) : Fin 4 → K :=
  _mm256_add_pd (_mm256_add_pd (_mm256_add_pd (_mm256_add_pd (forceTerm_9 s) (xi_205 s)) (xi_210 s)) (xi_214 s)) (_mm256_loadu_pd (fun x => s._data_pdfs x (s.ctr_1 + 1) s.ctr_2 9) (s.ctr_0 + 1))

def store_10 (s : Site K) : Fin 4 → K :=
  _mm256_add_pd (_mm256_add_pd (_mm256_add_pd (_mm256_add_pd (forceTerm_10 s) (xi_209 s)) (xi_212 s)) (xi_214 s)) (_mm256_loadu_pd (fun x => s._data_pdfs x (s.ctr_1 + 1) s.ctr_2 10) (s.ctr_0 - 1))

def store_11 (s : Site K) : Fin 4 → K :=
  _mm256_add_pd (_mm256_add_pd (_mm256_add_pd (_mm256_add_pd (forceTerm_11 s) (xi_221 s)) (xi_233 s)) (xi_238 s)) (_mm256_load_pd (fun x => s._data_pdfs x (s.ctr_1 - 1) (s.ctr_2 - 1) 11) s.ctr_0)

def store_12 (s : Site K) : Fin 4 → K :=
  _mm256_add_pd (_mm256_add_pd (_mm256_add_pd (_mm256_add_pd (forceTerm_12 s) (xi_233 s)) (xi_239 s)) (xi_240 s)) (_mm256_load_pd (fun x => s._data_pdfs x (s.ctr_1 + 1) (s.ctr_2 - 1) 12) s.ctr_0)

def store_13 (s : Site K) : Fin 4 → K :=
  _mm256_add_pd (_mm256_add_pd (_mm256_add_pd (_mm256_add_pd (forceTerm_13 s) (xi_245 s)) (xi_248 s)) (xi_253 s)) (_mm256_loadu_pd (fun x => s._data_pdfs x s.ctr_1 (s.ctr_2 - 1) 13) (s.ctr_0 + 1))

def store_14 (s : Site K) : Fin 4 → K :=
  _mm256_add_pd (_mm256_add_pd (_mm256_add_pd (_mm256_add_pd (forceTerm_14 s) (xi_245 s)) (xi_254 s)) (xi_255 s)) (_mm256_loadu_pd (fun x => s._data_pdfs x s.ctr_1 (s.ctr_2 - 1) 14) (s.ctr_0 - 1))

def store_15 (s : Site K) : Fin 4 → K :=
  _mm256_add_pd (_mm256_add_pd (_mm256_add_pd (_mm256_add_pd (forceTerm_15 s) (xi_238 s)) (xi_240 s)) (xi_257 s)) (_mm256_load_pd (fun x => s._data_pdfs x (s.ctr_1 - 1) (s.ctr_2 + 1) 15) s.ctr_0)

def store_16 (s : Site K) : Fin 4 → K :=
  _mm256_add_pd (_mm256_add_pd (_mm256_add_pd (_mm256_add_pd (forceTerm_16 s) (xi_221 s)) (xi_239 s)) (xi_257 s)) (_mm256_load_pd (fun x => s._data_pdfs x (s.ctr_1 + 1) (s.ctr_2 + 1) 16) s.ctr_0)

def store_17 (s : Site K) : Fin 4 → K :=
  _mm256_add_pd (_mm256_add_pd (_mm256_add_pd (_mm256_add_pd (forceTerm_17 s) (xi_253 s)) (xi_254 s)) (xi_258 s)) (_mm256_loadu_pd (fun x => s._data_pdfs x s.ctr_1 (s.ctr_2 + 1) 17) (s.ctr_0 + 1))

def store_18 (s : Site K) : Fin 4 → K :=
  _mm256_add_pd (_mm256_add_pd (_mm256_add_pd (_mm256_add_pd (forceTerm_18 s) (xi_248 s)) (xi_255 s)) (xi_258 s)) (_mm256_loadu_pd (fun x => s._data_pdfs x s.ctr_1 (s.ctr_2 + 1) 18) (s.ctr_0 - 1))

/-- The four-lane vector stored to each of the nineteen slots of the current cell. -/
def values (s : Site K) : Fin 19 → Fin 4 → K :=
  ![store_0 s, store_1 s, store_2 s, store_3 s, store_4 s, store_5 s, store_6 s,
    store_7 s, store_8 s, store_9 s, store_10 s, store_11 s, store_12 s,
    store_13 s, store_14 s, store_15 s, store_16 s, store_17 s, store_18 s]

end kernel_streamCollide

/-! ### Loop body of the AVX `kernel_stream` (lines 1023-1041) -/

namespace kernel_stream

def store_0 (_data_pdfs : PdfField K) (ctr_0 ctr_1 ctr_2 : Int) : Fin 4 → K :=
  _mm256_load_pd (fun x => _data_pdfs x ctr_1 ctr_2 0) ctr_0

def store_1 (_data_pdfs : PdfField K) (ctr_0 ctr_1 ctr_2 : Int) : Fin 4 → K :=
  _mm256_load_pd (fun x => _data_pdfs x (ctr_1 - 1) ctr_2 1) ctr_0

def store_2 (_data_pdfs : PdfField K) (ctr_0 ctr_1 ctr_2 : Int) : Fin 4 → K :=
  _mm256_load_pd (fun x => _data_pdfs x (ctr_1 + 1) ctr_2 2) ctr_0

def store_3 (_data_pdfs : PdfField K) (ctr_0 ctr_1 ctr_2 : Int) : Fin 4 → K :=
  _mm256_loadu_pd (fun x => _data_pdfs x ctr_1 ctr_2 3) (ctr_0 + 1)

def store_4 (_data_pdfs : PdfField K) (ctr_0 ctr_1 ctr_2 : Int) : Fin 4 → K :=
  _mm256_loadu_pd (fun x => _data_pdfs x ctr_1 ctr_2 4) (ctr_0 - 1)

def store_5 (_data_pdfs : PdfField K) (ctr_0 ctr_1 ctr_2 : Int) : Fin 4 → K :=
  _mm256_load_pd (fun x => _data_pdfs x ctr_1 (ctr_2 - 1) 5) ctr_0

def store_6 (_data_pdfs : PdfField K) (ctr_0 ctr_1 ctr_2 : Int) : Fin 4 → K :=
  _mm256_load_pd (fun x => _data_pdfs x ctr_1 (ctr_2 + 1) 6) ctr_0

def store_7 (_data_pdfs : PdfField K) (ctr_0 ctr_1 ctr_2 : Int) : Fin 4 → K :=
  _mm256_loadu_pd (fun x => _data_pdfs x (ctr_1 - 1) ctr_2 7) (ctr_0 + 1)

def store_8 (_data_pdfs : PdfField K) (ctr_0 ctr_1 ctr_2 : Int) : Fin 4 → K :=
  _mm256_loadu_pd (fun x => _data_pdfs x (ctr_1 - 1) ctr_2 8) (ctr_0 - 1)

def store_9 (_data_pdfs : PdfField K) (ctr_0 ctr_1 ctr_2 : Int) : Fin 4 → K :=
  _mm256_loadu_pd (fun x => _data_pdfs x (ctr_1 + 1) ctr_2 9) (ctr_0 + 1)

def store_10 (_data_pdfs : PdfField K) (ctr_0 ctr_1 ctr_2 : Int) : Fin 4 → K :=
  _mm256_loadu_pd (fun x => _data_pdfs x (ctr_1 + 1) ctr_2 10) (ctr_0 - 1)

def store_11 (_data_pdfs : PdfField K) (ctr_0 ctr_1 ctr_2 : Int) : Fin 4 → K :=
  _mm256_load_pd (fun x => _data_pdfs x (ctr_1 - 1) (ctr_2 - 1) 11) ctr_0

def store_12 (_data_pdfs : PdfField K) (ctr_0 ctr_1 ctr_2 : Int) : Fin 4 → K :=
  _mm256_load_pd (fun x => _data_pdfs x (ctr_1 + 1) (ctr_2 - 1) 12) ctr_0

def store_13 (_data_pdfs : PdfField K) (ctr_0 ctr_1 ctr_2 : Int) : Fin 4 → K :=
  _mm256_loadu_pd (fun x => _data_pdfs x ctr_1 (ctr_2 - 1) 13) (ctr_0 + 1)

def store_14 (_data_pdfs : PdfField K) (ctr_0 ctr_1 ctr_2 : Int) : Fin 4 → K :=
  _mm256_loadu_pd (fun x => _data_pdfs x ctr_1 (ctr_2 - 1) 14) (ctr_0 - 1)

def store_15 (_data_pdfs : PdfField K) (ctr_0 ctr_1 ctr_2 : Int) : Fin 4 → K :=
  _mm256_load_pd (fun x => _data_pdfs x (ctr_1 - 1) (ctr_2 + 1) 15) ctr_0

def store_16 (_data_pdfs : PdfField K) (ctr_0 ctr_1 ctr_2 : Int) : Fin 4 → K :=
  _mm256_load_pd (fun x => _data_pdfs x (ctr_1 + 1) (ctr_2 + 1) 16) ctr_0

def store_17 (_data_pdfs : PdfField K) (ctr_0 ctr_1 ctr_2 : Int) : Fin 4 → K :=
  _mm256_loadu_pd (fun x => _data_pdfs x ctr_1 (ctr_2 + 1) 17) (ctr_0 + 1)

def store_18 (_data_pdfs : PdfField K) (ctr_0 ctr_1 ctr_2 : Int) : Fin 4 → K :=
  _mm256_loadu_pd (fun x => _data_pdfs x ctr_1 (ctr_2 + 1) 18) (ctr_0 - 1)

/-- The four-lane vector stored to each of the nineteen slots of the current cell. -/
def values (_data_pdfs : PdfField K) (ctr_0 ctr_1 ctr_2 : Int) : Fin 19 → Fin 4 → K :=
  ![store_0 _data_pdfs ctr_0 ctr_1 ctr_2, store_1 _data_pdfs ctr_0 ctr_1 ctr_2, store_2 _data_pdfs ctr_0 ctr_1 ctr_2, store_3 _data_pdfs ctr_0 ctr_1 ctr_2, store_4 _data_pdfs ctr_0 ctr_1 ctr_2, store_5 _data_pdfs ctr_0 ctr_1 ctr_2, store_6 _data_pdfs ctr_0 ctr_1 ctr_2,
    store_7 _data_pdfs ctr_0 ctr_1 ctr_2, store_8 _data_pdfs ctr_0 ctr_1 ctr_2, store_9 _data_pdfs ctr_0 ctr_1 ctr_2, store_10 _data_pdfs ctr_0 ctr_1 ctr_2, store_11 _data_pdfs ctr_0 ctr_1 ctr_2, store_12 _data_pdfs ctr_0 ctr_1 ctr_2,
    store_13 _data_pdfs ctr_0 ctr_1 ctr_2, store_14 _data_pdfs ctr_0 ctr_1 ctr_2, store_15 _data_pdfs ctr_0 ctr_1 ctr_2, store_16 _data_pdfs ctr_0 ctr_1 ctr_2, store_17 _data_pdfs ctr_0 ctr_1 ctr_2, store_18 _data_pdfs ctr_0 ctr_1 ctr_2]

end kernel_stream


/-- The AVX `internal_kernel_collide::kernel_collide`: four cells per iteration of the x loop. -/
def kernel_collide (sqrt : K → K) (philox_double2 : Philox K) (_data_force : ForceField K)
    (_data_pdfs : PdfField K) (_size_force_0 _size_force_1 _size_force_2 : Int)
    (block_offset_0 block_offset_1 block_offset_2 : Nat)
    (kT omega_bulk omega_even omega_odd omega_shear : K) (seed time_step : Nat) : PdfField K :=
  forLoop 0 _size_force_2 1 (fun ctr_2 pdfs =>
    forLoop 0 _size_force_1 1 (fun ctr_1 pdfs =>
      forLoop 0 (roundUp4 _size_force_0) 4 (fun ctr_0 pdfs =>
        storeLanes pdfs ctr_0 ctr_1 ctr_2
          (kernel_collide.values ⟨sqrt, philox_double2, _data_force, pdfs,
            block_offset_0, block_offset_1, block_offset_2,
            kT, omega_bulk, omega_even, omega_odd, omega_shear, seed, time_step,
            ctr_0, ctr_1, ctr_2⟩)) pdfs) pdfs) _data_pdfs

/-- The AVX `internal_kernel_streamCollide::kernel_streamCollide`. -/
def kernel_streamCollide (sqrt : K → K) (philox_double2 : Philox K) (_data_force : ForceField K)
    (_data_pdfs _data_pdfs_tmp : PdfField K) (_size_force_0 _size_force_1 _size_force_2 : Int)
    (block_offset_0 block_offset_1 block_offset_2 : Nat)
    (kT omega_bulk omega_even omega_odd omega_shear : K) (seed time_step : Nat) : PdfField K :=
  forLoop 1 (_size_force_2 - 1) 1 (fun ctr_2 tmp =>
    forLoop 1 (_size_force_1 - 1) 1 (fun ctr_1 tmp =>
      forLoop 1 (roundUp4 (_size_force_0 - 2) + 1) 4 (fun ctr_0 tmp =>
        storeLanes tmp ctr_0 ctr_1 ctr_2
          (kernel_streamCollide.values ⟨sqrt, philox_double2, _data_force, _data_pdfs,
            block_offset_0, block_offset_1, block_offset_2,
            kT, omega_bulk, omega_even, omega_odd, omega_shear, seed, time_step,
            ctr_0, ctr_1, ctr_2⟩)) tmp) tmp) _data_pdfs_tmp

/-- The AVX `internal_kernel_stream::kernel_stream`. -/
def kernel_stream (_data_pdfs _data_pdfs_tmp : PdfField K)
    (_size_pdfs_0 _size_pdfs_1 _size_pdfs_2 : Int) : PdfField K :=
  forLoop 1 (_size_pdfs_2 - 1) 1 (fun ctr_2 tmp =>
    forLoop 1 (_size_pdfs_1 - 1) 1 (fun ctr_1 tmp =>
      forLoop 1 (roundUp4 (_size_pdfs_0 - 2) + 1) 4 (fun ctr_0 tmp =>
        storeLanes tmp ctr_0 ctr_1 ctr_2
          (kernel_stream.values _data_pdfs ctr_0 ctr_1 ctr_2)) tmp) tmp) _data_pdfs_tmp


end FluctuatingMRTLatticeModelAvx

/-! ## Auxiliary definitions used to state the results -/

/-- The cell record of `kernel_collide` for the populations a streaming step has pulled:
the population field is replaced by the one `kernel_stream` computes from it. -/
def pulled (s : Site K) : Site K :=
  ⟨s.sqrt, s.philox_double2, s._data_force,
    fun x y z => FluctuatingMRTLatticeModel.kernel_stream.values s._data_pdfs x y z,
    s.block_offset_0, s.block_offset_1, s.block_offset_2, s.kT, s.omega_bulk, s.omega_even,
    s.omega_odd, s.omega_shear, s.seed, s.time_step, s.ctr_0, s.ctr_1, s.ctr_2⟩

/-- The cell record of lane `j` of a vectorised iteration: the x counter is advanced by `j`. -/
def lane (s : Site K) (j : Fin 4) : Site K :=
  ⟨s.sqrt, s.philox_double2, s._data_force, s._data_pdfs, s.block_offset_0, s.block_offset_1,
    s.block_offset_2, s.kT, s.omega_bulk, s.omega_even, s.omega_odd, s.omega_shear, s.seed,
    s.time_step, s.ctr_0 + ((j : Nat) : Int), s.ctr_1, s.ctr_2⟩


/-! ## Concrete inputs over the rationals -/

namespace Example

/-- A stand-in for `sqrt` on the rationals, with `sqrt 0 = 0`. -/
def sqrt0 : ℚ → ℚ := fun x => x

/-- A generator that always returns the same pair. -/
def philoxA : Philox ℚ := fun _ _ _ _ _ _ => (1 / 2, 1 / 2)

/-- Another generator. -/
def philoxB : Philox ℚ := fun _ _ _ _ _ _ => (1 / 4, 3 / 4)

/-- A generator whose pair records the counters and keys it was called with. -/
def philoxC : Philox ℚ :=
  fun ctr0 ctr1 ctr2 ctr3 key0 key1 =>
    ((ctr0 : ℚ) + 2 * ctr1 + 3 * ctr2, (ctr3 : ℚ) + 5 * key0 + 7 * key1)

/-- No force. -/
def force0 : ForceField ℚ := fun _ _ _ _ => 0

/-- The uniform force density `(0, 6, 0)`. -/
def forceY : ForceField ℚ := fun _ _ _ a => if a = 1 then 6 else 0

/-- The force density `(0, 6, 0)` at the cell `(0, 0, 0)` and no force elsewhere. -/
def forceP : ForceField ℚ := fun x y z a => if x = 0 ∧ y = 0 ∧ z = 0 ∧ a = 1 then 6 else 0

/-- The field with population 1 in the rest slot of every cell and 0 in the other slots. -/
def pdfsC : PdfField ℚ := fun _ _ _ q => if q = 0 then 1 else 0

/-- The rest state of density 1 in every cell. -/
def pdfsRest : PdfField ℚ := fun _ _ _ q => FluctuatingMRTLatticeModel.w q * 1

/-- The field that is 0 everywhere. -/
def pdfs0 : PdfField ℚ := fun _ _ _ _ => 0

/-- The field that is 1 everywhere. -/
def pdfs1 : PdfField ℚ := fun _ _ _ _ => 1

end Example


/-- The eight pairs of draws of one cell of `kernel_collide`, by mode index. -/
def FluctuatingMRTLatticeModel.kernel_collide.draws (s : Site K) : Fin 8 → K × K :=
  ![FluctuatingMRTLatticeModel.kernel_collide.random_0 s,
    FluctuatingMRTLatticeModel.kernel_collide.random_1 s,
    FluctuatingMRTLatticeModel.kernel_collide.random_2 s,
    FluctuatingMRTLatticeModel.kernel_collide.random_3 s,
    FluctuatingMRTLatticeModel.kernel_collide.random_4 s,
    FluctuatingMRTLatticeModel.kernel_collide.random_5 s,
    FluctuatingMRTLatticeModel.kernel_collide.random_6 s,
    FluctuatingMRTLatticeModel.kernel_collide.random_7 s]

/-- The eight pairs of draws of one cell of `kernel_streamCollide`, by mode index. -/
def FluctuatingMRTLatticeModel.kernel_streamCollide.draws (s : Site K) : Fin 8 → K × K :=
  ![FluctuatingMRTLatticeModel.kernel_streamCollide.random_0 s,
    FluctuatingMRTLatticeModel.kernel_streamCollide.random_1 s,
    FluctuatingMRTLatticeModel.kernel_streamCollide.random_2 s,
    FluctuatingMRTLatticeModel.kernel_streamCollide.random_3 s,
    FluctuatingMRTLatticeModel.kernel_streamCollide.random_4 s,
    FluctuatingMRTLatticeModel.kernel_streamCollide.random_5 s,
    FluctuatingMRTLatticeModel.kernel_streamCollide.random_6 s,
    FluctuatingMRTLatticeModel.kernel_streamCollide.random_7 s]

/-- Modelled from the spec: the halo exchange of a lattice made of one block that is periodic
in the three directions.  The exchange itself belongs to the block/field library, which is not
among the sources; the spec (sections 3 and 5) only says that the ghost layers are
"repopulated by halo exchange (external) before each step".  Every ghost cell within the
`nrOfGhostLayers` layers receives the populations of its periodic image among the owned
cells; the owned cells and the cells further out are left alone. -/
def periodicHalo (fld : FluctuatingMRTLatticeModel.GhostLayerField K 19) :
    FluctuatingMRTLatticeModel.GhostLayerField K 19 :=
  { fld with
    data := fun x y z q =>
      if (-(fld.nrOfGhostLayers : Int) ≤ x ∧ x < fld.xSize + fld.nrOfGhostLayers)
          ∧ (-(fld.nrOfGhostLayers : Int) ≤ y ∧ y < fld.ySize + fld.nrOfGhostLayers)
          ∧ (-(fld.nrOfGhostLayers : Int) ≤ z ∧ z < fld.zSize + fld.nrOfGhostLayers)
      then fld.data (x % fld.xSize) (y % fld.ySize) (z % fld.zSize) q
      else fld.data x y z q }

/-- One time step on the periodic one-block lattice: halo exchange, the fused sweep over the
owned cells, and the increment of the time step done by
`LBWalberlaD3Q19FluctuatingMRT::integrate`. -/
def periodicStep (sqrt : K → K) (philox_double2 : Philox K)
    (block : FluctuatingMRTLatticeModel.Block K) : FluctuatingMRTLatticeModel.Block K :=
  let swept := FluctuatingMRTLatticeModel.Sweep.streamCollide sqrt philox_double2
    ⟨periodicHalo block.pdfs, block.pdfs_tmp, block.lm⟩ 0
  ⟨swept.pdfs, swept.pdfs_tmp,
    { swept.lm with time_step_ := (swept.lm.time_step_ + 1) % 4294967296 }⟩

/-- The lattice after `n` time steps. -/
def periodicSteps (sqrt : K → K) (philox_double2 : Philox K) :
    Nat → FluctuatingMRTLatticeModel.Block K → FluctuatingMRTLatticeModel.Block K
  | 0, block => block
  | n + 1, block => periodicStep sqrt philox_double2 (periodicSteps sqrt philox_double2 n block)

namespace Example

/-- A block of one owned cell with one ghost layer: rest populations 1 everywhere, force
density `(0, 6, 0)` at the owned cell and none at the ghost cells, all relaxation rates zero,
`kT = 0`. -/
def blockY : FluctuatingMRTLatticeModel.Block ℚ :=
  ⟨⟨pdfsC, 1, 1, 1, 1⟩, ⟨pdfs0, 1, 1, 1, 1⟩,
    ⟨⟨forceP, 1, 1, 1, 1⟩, 0, 0, 0, 0, 0, 0, 0, 0, 0, 0⟩⟩

/-- A block of two by two by two owned cells with one ghost layer at rest: density 1, no
force, relaxation rates 1, `kT = 0`. -/
def blockRest : FluctuatingMRTLatticeModel.Block ℚ :=
  ⟨⟨pdfsRest, 2, 2, 2, 1⟩, ⟨pdfs0, 2, 2, 2, 1⟩,
    ⟨⟨force0, 2, 2, 2, 1⟩, 1, 1, 0, 0, 1, 0, 1, 0, 0, 0⟩⟩

end Example


namespace Example

/-- The cell with local index `(2, 1, 1)` of a block with offset `(4294967295, 0, 7)`. -/
def siteA : Site ℚ :=
  ⟨sqrt0, philoxC, forceY, pdfsC, 4294967295, 0, 7, 1, 1, 1, 1, 1, 3, 4, 2, 1, 1⟩

/-- The same cell seen from a block with offset `(0, 0, 0)`: local index `(1, 1, 8)`. -/
def siteB : Site ℚ :=
  ⟨sqrt0, philoxC, forceY, pdfsC, 0, 0, 0, 1, 1, 1, 1, 1, 3, 4, 1, 1, 8⟩

end Example


/-! ## `LBWalberlaD3Q19FluctuatingMRT` (`LBWalberlaD3Q19FluctuatingMRT.hpp`) -/

/-- The members of a `LBWalberlaD3Q19FluctuatingMRT` object its methods use.  The lattice model
`m_lattice_model` is the object behind the shared pointer.  `m_last_applied_force_field_id`
(of the identifier type `I`) and `m_time_loop` belong to the base class `LBWalberlaImpl`, whose
header is not among the sources; `m_time_loop : T` stands for the time loop together with the
block storage it sweeps. -/
structure LBWalberlaD3Q19FluctuatingMRT (K : Type) (I : Type) (T : Type) where
  m_lattice_model : FluctuatingMRTLatticeModel.LatticeModel K
  m_last_applied_force_field_id : I
  m_kT : K
  m_time_loop : T

namespace LBWalberlaD3Q19FluctuatingMRT

/-- The type of the constructor
`LatticeModel(force field id, kT, omega_bulk, omega_even, omega_odd, omega_shear, uint32, uint32)`
of `FluctuatingMRTLatticeModel.h`.  The header is not among the sources, so the constructor is a
parameter of `construct_lattice_model`. -/
abbrev LatticeModelCtor (K : Type) (I : Type) : Type :=
  I → K → K → K → K → K → Nat → Nat → FluctuatingMRTLatticeModel.LatticeModel K

/-- Modelled from the spec: what the constructor of `FluctuatingMRTLatticeModel` (header not
among the sources) does with the arguments that the call in `construct_lattice_model` labels:
the second argument is stored as `kT_` and the following four, labelled `bulk`, `even`, `odd`
and `shear`, as the relaxation rates of those names.  Nothing is assumed about the last two
arguments. -/
def LatticeModelCtor.StoresRates {I : Type} (ctor : LatticeModelCtor K I) : Prop :=
  ∀ (id : I) (kT omega_bulk omega_even omega_odd omega_shear : K) (a b : Nat),
    (ctor id kT omega_bulk omega_even omega_odd omega_shear a b).kT_ = kT
    ∧ (ctor id kT omega_bulk omega_even omega_odd omega_shear a b).omega_bulk_ = omega_bulk
    ∧ (ctor id kT omega_bulk omega_even omega_odd omega_shear a b).omega_even_ = omega_even
    ∧ (ctor id kT omega_bulk omega_even omega_odd omega_shear a b).omega_odd_ = omega_odd
    ∧ (ctor id kT omega_bulk omega_even omega_odd omega_shear a b).omega_shear_ = omega_shear

variable {I T : Type}

/-- `LBWalberlaD3Q19FluctuatingMRT::construct_lattice_model` (lines 11-23). -/
def construct_lattice_model (LatticeModel : LatticeModelCtor K I)
    (self : LBWalberlaD3Q19FluctuatingMRT K I T) (viscosity kT : K) (seed : Nat) :
    LBWalberlaD3Q19FluctuatingMRT K I T :=
  let omega : K := 2 / (6 * viscosity + 1)
  let magic_number : K := 3 / 16
  let omega_2 : K := (4 - 2 * omega) / (4 * magic_number * omega + 2 - omega)
  { self with
    m_lattice_model :=
      LatticeModel self.m_last_applied_force_field_id kT omega omega omega_2 omega 1 seed }

/-- `LBWalberlaD3Q19FluctuatingMRT::set_viscosity` (lines 24-35).  `on_lattice_model_change`
is a method of the base class (not among the sources) and is a parameter: it acts on the time
loop and the blocks, given the lattice model. -/
def set_viscosity
    (on_lattice_model_change : FluctuatingMRTLatticeModel.LatticeModel K → T → T)
    (self : LBWalberlaD3Q19FluctuatingMRT K I T) (viscosity : K) :
    LBWalberlaD3Q19FluctuatingMRT K I T :=
  let lm := self.m_lattice_model
  let omega : K := 2 / (6 * viscosity + 1)
  let magic_number : K := 3 / 16
  let omega_2 : K := (4 - 2 * omega) / (4 * magic_number * omega + 2 - omega)
  let lm := { lm with omega_shear_ := omega }
  let lm := { lm with omega_odd_ := omega_2 }
  let lm := { lm with omega_even_ := omega }
  let lm := { lm with omega_bulk_ := omega }
  { self with
    m_lattice_model := lm
    m_time_loop := on_lattice_model_change lm self.m_time_loop }

/-- `LBWalberlaD3Q19FluctuatingMRT::get_viscosity` (lines 36-39). -/
def get_viscosity (self : LBWalberlaD3Q19FluctuatingMRT K I T) : K :=
  let lm := self.m_lattice_model
  (2 - lm.omega_shear_) / (6 * lm.omega_shear_)

/-- `LBWalberlaD3Q19FluctuatingMRT::integrate` (lines 52-57).  `singleStep` (of the time loop)
and `on_lattice_model_change` are not among the sources and are parameters.  `time_step_` is
handed to the kernels as a `uint32_t`; `+= 1` wraps at `2^32`. -/
def integrate (singleStep : T → T)
    (on_lattice_model_change : FluctuatingMRTLatticeModel.LatticeModel K → T → T)
    (self : LBWalberlaD3Q19FluctuatingMRT K I T) : LBWalberlaD3Q19FluctuatingMRT K I T :=
  let m_time_loop := singleStep self.m_time_loop
  let lm := self.m_lattice_model
  let lm := { lm with time_step_ := (lm.time_step_ + 1) % 4294967296 }
  { self with
    m_lattice_model := lm
    m_time_loop := on_lattice_model_change lm m_time_loop }

/-- The object after `n` calls of `integrate`. -/
def integrate_n (singleStep : T → T)
    (on_lattice_model_change : FluctuatingMRTLatticeModel.LatticeModel K → T → T) :
    Nat → LBWalberlaD3Q19FluctuatingMRT K I T → LBWalberlaD3Q19FluctuatingMRT K I T
  | 0, self => self
  | n + 1, self =>
    integrate singleStep on_lattice_model_change
      (integrate_n singleStep on_lattice_model_change n self)

end LBWalberlaD3Q19FluctuatingMRT

/-! ## `lb_walberla_instance.cpp` -/

namespace lb_walberla_instance

/-- Modelled from the spec: an `LbWalberla` object.  The class (`LbWalberla.hpp`) is not among
the sources; an instance is represented by the arguments it was constructed from. -/
structure LbWalberla (K : Type) where
  viscosity : K
  agrid : K
  box_dimensions : Fin 3 → K
  node_grid : Fin 3 → Int
  skin : K

/-- The global `std::unique_ptr<LbWalberla> lb_walberla_instance`; `none` is `nullptr`. -/
abbrev Instance (K : Type) : Type := Option (LbWalberla K)

/-- The initial value `nullptr` of `lb_walberla_instance` (line 17). -/
def lb_walberla_instance : Instance K := none

/-- `lb_walberla()` (lines 20-26): the `std::runtime_error` is `Except.error` with its
message. -/
def lb_walberla (lb_walberla_instance : Instance K) : Except String (LbWalberla K) :=
  match lb_walberla_instance with
  | none => Except.error "Attempted access to uninitialized LbWalberla instance."
  | some p => Except.ok p

/-- `init_lb_walberla` (lines 28-33): the new value of `lb_walberla_instance`. -/
def init_lb_walberla (viscosity agrid : K) (box_dimensions : Fin 3 → K)
    (node_grid : Fin 3 → Int) (skin : K) (lb_walberla_instance : Instance K) : Instance K :=
  some ⟨viscosity, agrid, box_dimensions, node_grid, skin⟩

/-- `destruct_lb_walberla` (line 36): the new value of `lb_walberla_instance`. -/
def destruct_lb_walberla (lb_walberla_instance : Instance K) : Instance K :=
  none

/-- A call that changes `lb_walberla_instance`. -/
inductive Call (K : Type) where
  | init (viscosity agrid : K) (box_dimensions : Fin 3 → K) (node_grid : Fin 3 → Int)
      (skin : K) : Call K
  | destruct : Call K

/-- The effect of one call on `lb_walberla_instance`. -/
def Call.exec (inst : Instance K) : Call K → Instance K
  | Call.init viscosity agrid box_dimensions node_grid skin =>
    init_lb_walberla viscosity agrid box_dimensions node_grid skin inst
  | Call.destruct => destruct_lb_walberla inst

/-- The value of `lb_walberla_instance` after a sequence of calls made since program start. -/
def after (calls : List (Call K)) : Instance K :=
  calls.foldl Call.exec lb_walberla_instance

end lb_walberla_instance

namespace Example

/-- A constructor that keeps its arguments in the order of the call. -/
def latticeModelCtor : LBWalberlaD3Q19FluctuatingMRT.LatticeModelCtor ℚ Unit :=
  fun _ kT omega_bulk omega_even omega_odd omega_shear a b =>
    ⟨⟨force0, 1, 1, 1, 1⟩, omega_even, omega_odd, 0, 0, omega_shear, 0, omega_bulk, b, kT, a⟩

/-- An object with `omega_bulk_ = 1/2`, `omega_even_ = 1/3`, `omega_shear_ = 1`,
`omega_odd_ = 1`, `kT_ = 2`, seed 7 and time step `2^32 - 1`. -/
def lbY : LBWalberlaD3Q19FluctuatingMRT ℚ Unit Nat :=
  ⟨⟨⟨force0, 1, 1, 1, 1⟩, 1 / 3, 1, 0, 0, 1, 0, 1 / 2, 7, 2, 4294967295⟩, (), 2, 0⟩

end Example


/-! ## The noise of the collision -/

/-- The cell record with `kT` set to zero: the same collision without thermal noise. -/
def quiet (s : Site K) : Site K :=
  ⟨s.sqrt, s.philox_double2, s._data_force, s._data_pdfs, s.block_offset_0, s.block_offset_1,
    s.block_offset_2, 0, s.omega_bulk, s.omega_even, s.omega_odd, s.omega_shear, s.seed,
    s.time_step, s.ctr_0, s.ctr_1, s.ctr_2⟩

/-- The amplitude `sqrt(kT * rho * (1 - (1 - w)^2))` of the fluctuation-dissipation relation,
for the density `rho` and the relaxation rate `w`. -/
def noiseAmplitude (s : Site K) (rho w : K) : K :=
  s.sqrt (s.kT * rho * (1 - (1 - w) ^ 2))

namespace FluctuatingMRTLatticeModel

/-- The fifteen non-conserved moments of the D3Q19 collision, as integer vectors over the
nineteen slots: moment `j` of populations `f` is `sum_q noiseMoment j q * f q`.  They are the
moment vectors of the back transform of lines 779-930 (each noise term enters slot `q` with
the weight `w q * noiseMoment j q`), in the order of the draws `random_0_0, random_0_1,
random_1_0, ..., random_7_0`: five shear moments (`2 cx^2 - cy^2 - cz^2`, `cy^2 - cz^2` and,
up to sign, the three products of two different velocity components), the bulk moment
`|c|^2 - 1`, six odd (third order) moments and three even (fourth order) moments. -/
def noiseMoment : Fin 15 → Fin 19 → Int :=
  ![![0, -1, -1, 2, 2, -1, -1, 1, 1, 1, 1, -2, -2, 1, 1, -2, -2, 1, 1],
    ![0, 1, 1, 0, 0, -1, -1, 1, 1, 1, 1, 0, 0, -1, -1, 0, 0, -1, -1],
    ![0, 0, 0, 0, 0, 0, 0, -1, 1, 1, -1, 0, 0, 0, 0, 0, 0, 0, 0],
    ![0, 0, 0, 0, 0, 0, 0, 0, 0, 0, 0, 0, 0, -1, 1, 0, 0, 1, -1],
    ![0, 0, 0, 0, 0, 0, 0, 0, 0, 0, 0, 1, -1, 0, 0, -1, 1, 0, 0],
    ![-1, 0, 0, 0, 0, 0, 0, 1, 1, 1, 1, 1, 1, 1, 1, 1, 1, 1, 1],
    ![0, -1, 1, 0, 0, 0, 0, 2, 2, -2, -2, -1, 1, 0, 0, -1, 1, 0, 0],
    ![0, 0, 0, 0, 0, -1, 1, 0, 0, 0, 0, -1, -1, 2, 2, 1, 1, -2, -2],
    ![0, 0, 0, 1, -1, 0, 0, -2, 2, -2, 2, 0, 0, 1, -1, 0, 0, 1, -1],
    ![0, 0, 0, 1, -1, 0, 0, 0, 0, 0, 0, 0, 0, -1, 1, 0, 0, -1, 1],
    ![0, 0, 0, 0, 0, -1, 1, 0, 0, 0, 0, 1, 1, 0, 0, -1, -1, 0, 0],
    ![0, -1, 1, 0, 0, 0, 0, 0, 0, 0, 0, 1, -1, 0, 0, 1, -1, 0, 0],
    ![1, -5, -5, -5, -5, 4, 4, 7, 7, 7, 7, -2, -2, -2, -2, -2, -2, -2, -2],
    ![1, 2, 2, -5, -5, -3, -3, 0, 0, 0, 0, -2, -2, 5, 5, -2, -2, 5, 5],
    ![1, -3, -3, 0, 0, -3, -3, 0, 0, 0, 0, 3, 3, 0, 0, 3, 3, 0, 0]]

/-- The relaxation rate in the noise amplitude of each of the fifteen moments. -/
def noiseRate (s : Site K) : Fin 15 → K :=
  ![s.omega_shear, s.omega_shear, s.omega_shear, s.omega_shear, s.omega_shear, s.omega_bulk,
    s.omega_odd, s.omega_odd, s.omega_odd, s.omega_odd, s.omega_odd, s.omega_odd,
    s.omega_even, s.omega_even, s.omega_even]

/-- The constant factor of the noise of each of the fifteen moments (the decimal constants of
the kernel times the squared norm of the moment vector). -/
def noiseConst : Fin 15 → K :=
  ![(4330127018922193 / 625000000000000), 4, 2, 2, 2, (24494897427831779 / 5000000000000000),
    (24494897427831779 / 5000000000000000), (24494897427831779 / 5000000000000000),
    (24494897427831779 / 5000000000000000), (14142135623730951 / 5000000000000000),
    (14142135623730951 / 5000000000000000), (14142135623730951 / 5000000000000000),
    (112249721603218239 / 5000000000000000), (20916500663351889 / 1250000000000000),
    (13693063937629153 / 1250000000000000)]

/-- The draw that noises each of the fifteen moments in `kernel_collide`. -/
def kernel_collide.noiseDraw (s : Site K) : Fin 15 → K :=
  ![kernel_collide.random_0_0 s, kernel_collide.random_0_1 s, kernel_collide.random_1_0 s,
    kernel_collide.random_1_1 s, kernel_collide.random_2_0 s, kernel_collide.random_2_1 s,
    kernel_collide.random_3_0 s, kernel_collide.random_3_1 s, kernel_collide.random_4_0 s,
    kernel_collide.random_4_1 s, kernel_collide.random_5_0 s, kernel_collide.random_5_1 s,
    kernel_collide.random_6_0 s, kernel_collide.random_6_1 s, kernel_collide.random_7_0 s]

/-- The draw that noises each of the fifteen moments in `kernel_streamCollide`. -/
def kernel_streamCollide.noiseDraw (s : Site K) : Fin 15 → K :=
  ![kernel_streamCollide.random_0_0 s, kernel_streamCollide.random_0_1 s,
    kernel_streamCollide.random_1_0 s, kernel_streamCollide.random_1_1 s,
    kernel_streamCollide.random_2_0 s, kernel_streamCollide.random_2_1 s,
    kernel_streamCollide.random_3_0 s, kernel_streamCollide.random_3_1 s,
    kernel_streamCollide.random_4_0 s, kernel_streamCollide.random_4_1 s,
    kernel_streamCollide.random_5_0 s, kernel_streamCollide.random_5_1 s,
    kernel_streamCollide.random_6_0 s, kernel_streamCollide.random_6_1 s,
    kernel_streamCollide.random_7_0 s]

end FluctuatingMRTLatticeModel

/-! ## The CPU lattice Boltzmann fields (`core/grid_based_algorithms/lb.hpp`) -/

namespace lb

/-- The members of `LB_Parameters` (lines 130-175); `Vector3d` is three doubles and
`Vector<19, double>` nineteen. -/
structure LB_Parameters (K : Type) where
  rho : K
  viscosity : K
  bulk_viscosity : K
  agrid : K
  tau : K
  friction : K
  ext_force_density : Fin 3 → K
  rho_lb_units : K
  gamma_odd : K
  gamma_even : K
  gamma_shear : K
  gamma_bulk : K
  is_TRT : Bool
  fluct : Int
  phi : Fin 19 → K

/-- The populations `lbfluid[i][index]` (`LB_Fluid`, nineteen spans of doubles). -/
abbrev LB_Fluid (K : Type) := Fin 19 → Nat → K

/-- The text streamed into `runtimeErrorMsg()` by `lb_calc_local_rho` (lines 277-278); the
value of `__FILE__` is a parameter, `__LINE__` stands on line 278. -/
def lb_calc_local_rho_message (file : String) : String :=
  "Error in lb_calc_local_rho in " ++ file ++ "278" ++ ": CPU LB not switched on."

/-- `lb_calc_local_rho` (lines 274-292).  The globals `lattice_switch`, `lbpar` and `lbfluid`
are arguments, as is the flag `LATTICE_LB` (a macro of `lattice.hpp`, which is not among the
sources).  The result is the value stored through the pointer `rho`, together with the
runtime error messages raised. -/
def lb_calc_local_rho (LATTICE_LB : Nat) (file : String) (lattice_switch : Nat)
    (lbpar : LB_Parameters K) (lbfluid : LB_Fluid K) (index : Nat) : K × List String :=
  if lattice_switch &&& LATTICE_LB = 0 then
    (0, [lb_calc_local_rho_message file])
  else
    let avg_rho := lbpar.rho * lbpar.agrid * lbpar.agrid * lbpar.agrid
    (avg_rho + lbfluid 0 index + lbfluid 1 index + lbfluid 2 index +
      lbfluid 3 index + lbfluid 4 index + lbfluid 5 index +
      lbfluid 6 index + lbfluid 7 index + lbfluid 8 index +
      lbfluid 9 index + lbfluid 10 index + lbfluid 11 index +
      lbfluid 12 index + lbfluid 13 index + lbfluid 14 index +
      lbfluid 15 index + lbfluid 16 index + lbfluid 17 index +
      lbfluid 18 index, [])

end lb

/-! ## The assertions of the sweeps -/

namespace FluctuatingMRTLatticeModel

/-- Modelled from the spec: `GhostLayerField::xSizeWithGhostLayer()`, the owned cells plus the
ghost layers on both sides. -/
def GhostLayerField.xSizeWithGhostLayer {n : Nat} (fld : GhostLayerField K n) : Int :=
  (fld.xSize : Int) + 2 * (fld.nrOfGhostLayers : Int)

/-- Modelled from the spec: `GhostLayerField::ySizeWithGhostLayer()`. -/
def GhostLayerField.ySizeWithGhostLayer {n : Nat} (fld : GhostLayerField K n) : Int :=
  (fld.ySize : Int) + 2 * (fld.nrOfGhostLayers : Int)

/-- Modelled from the spec: `GhostLayerField::zSizeWithGhostLayer()`. -/
def GhostLayerField.zSizeWithGhostLayer {n : Nat} (fld : GhostLayerField K n) : Int :=
  (fld.zSize : Int) + 2 * (fld.nrOfGhostLayers : Int)

namespace Sweep

/-- The `WALBERLA_ASSERT_GREATER_EQUAL` checks of `Sweep::streamCollide` (lines 1084-1095), in
the order of the source. -/
def streamCollide_asserts (block : Block K) (numberOfGhostLayersToInclude : Nat) : Bool :=
  let pdfs := block.pdfs
  let pdfs_tmp := block.pdfs_tmp
  let force := block.lm.force_
  decide (-(numberOfGhostLayersToInclude : Int) - 1 ≥ -(force.nrOfGhostLayers : Int))
  && decide (-(numberOfGhostLayersToInclude : Int) - 1 ≥ -(pdfs.nrOfGhostLayers : Int))
  && decide (-(numberOfGhostLayersToInclude : Int) - 1 ≥ -(pdfs_tmp.nrOfGhostLayers : Int))
  && decide (force.xSizeWithGhostLayer
      ≥ (force.xSize : Int) + 2 * (numberOfGhostLayersToInclude : Int) + 2)
  && decide (force.ySizeWithGhostLayer
      ≥ (force.ySize : Int) + 2 * (numberOfGhostLayersToInclude : Int) + 2)
  && decide (force.zSizeWithGhostLayer
      ≥ (force.zSize : Int) + 2 * (numberOfGhostLayersToInclude : Int) + 2)

/-- The `WALBERLA_ASSERT_GREATER_EQUAL` checks of `Sweep::stream` (lines 1171-1180). -/
def stream_asserts (block : Block K) (numberOfGhostLayersToInclude : Nat) : Bool :=
  let pdfs := block.pdfs
  let pdfs_tmp := block.pdfs_tmp
  decide (-(numberOfGhostLayersToInclude : Int) - 1 ≥ -(pdfs.nrOfGhostLayers : Int))
  && decide (-(numberOfGhostLayersToInclude : Int) - 1 ≥ -(pdfs_tmp.nrOfGhostLayers : Int))
  && decide (pdfs.xSizeWithGhostLayer
      ≥ (pdfs.xSize : Int) + 2 * (numberOfGhostLayersToInclude : Int) + 2)
  && decide (pdfs.ySizeWithGhostLayer
      ≥ (pdfs.ySize : Int) + 2 * (numberOfGhostLayersToInclude : Int) + 2)
  && decide (pdfs.zSizeWithGhostLayer
      ≥ (pdfs.zSize : Int) + 2 * (numberOfGhostLayersToInclude : Int) + 2)

end Sweep

/-! ## The square roots and the draws of the collision -/

/-- The arguments of the four calls of `sqrt` in the loop body of `kernel_collide`, in the
order of the source: in `xi_102` (line 734), `xi_106` (line 737), `xi_136` (line 739) and
`xi_152` (line 747). -/
def kernel_collide.sqrtArgs (s : Site K) : Fin 4 → K :=
  ![kernel_collide.xi_101 s * (-((-s.omega_even + 1) * (-s.omega_even + 1)) + 1),
    kernel_collide.xi_101 s
      * (-((kernel_collide.xi_40 s + 1) * (kernel_collide.xi_40 s + 1)) + 1),
    kernel_collide.xi_101 s * (-((-s.omega_odd + 1) * (-s.omega_odd + 1)) + 1),
    kernel_collide.xi_101 s
      * (-((kernel_collide.xi_51 s + 1) * (kernel_collide.xi_51 s + 1)) + 1)]

/-- The relaxation rate in each of the four arguments of `sqrt`. -/
def sqrtRate (s : Site K) : Fin 4 → K :=
  ![s.omega_even, s.omega_bulk, s.omega_odd, s.omega_shear]

/-- The sixteen draws of one cell of `kernel_collide`: draw `2 k` is the first and draw
`2 k + 1` the second value returned by the call with mode index `k`. -/
def kernel_collide.draw16 (s : Site K) (i : Fin 16) : K :=
  if i.val % 2 = 0 then (kernel_collide.draws s ⟨i.val / 2, by omega⟩).1
  else (kernel_collide.draws s ⟨i.val / 2, by omega⟩).2

end FluctuatingMRTLatticeModel

/-- The generator `philox_double2` with the second value of the call with mode index 7
replaced by `v`. -/
def replaceLastDraw (philox_double2 : Philox K) (v : K) : Philox K :=
  fun ctr0 ctr1 ctr2 ctr3 key0 key1 =>
    if key0 = 7 then ((philox_double2 ctr0 ctr1 ctr2 ctr3 key0 key1).1, v)
    else philox_double2 ctr0 ctr1 ctr2 ctr3 key0 key1

namespace Example

/-- A population field that agrees with `pdfsC` on the owned cell `(0, 0, 0)` and on the first
layer around it, and holds 5 in every slot of every cell further out. -/
def pdfsG : PdfField ℚ :=
  fun x y z q =>
    if (-1 ≤ x ∧ x ≤ 1) ∧ (-1 ≤ y ∧ y ≤ 1) ∧ (-1 ≤ z ∧ z ≤ 1) then pdfsC x y z q else 5

/-- The block `blockY` with other data outside the reach of the fused sweep: the force
density is `(0, 6, 0)` in every cell (in `blockY` only in the owned cell), and the populations
are `pdfsG`. -/
def blockG : FluctuatingMRTLatticeModel.Block ℚ :=
  ⟨⟨pdfsG, 1, 1, 1, 1⟩, ⟨pdfs0, 1, 1, 1, 1⟩,
    ⟨⟨forceY, 1, 1, 1, 1⟩, 0, 0, 0, 0, 0, 0, 0, 0, 0, 0⟩⟩

/-- A cell with `kT = 0`, relaxation rates `(bulk, even, odd, shear) = (1/2, 1/3, 1/5, 1/4)`,
the populations `pdfsC` and the force density `(0, 6, 0)`. -/
def siteQ : Site ℚ :=
  ⟨sqrt0, philoxC, forceY, pdfsC, 0, 0, 0, 0, 1 / 2, 1 / 3, 1 / 5, 1 / 4, 3, 4, 1, 1, 1⟩

end Example

/-! ## More notions used to state the results -/

/-- The velocity the loop body of `kernel_collide` computes (locals `u_0`, `u_1`, `u_2`), by
axis. -/
def FluctuatingMRTLatticeModel.kernel_collide.u (s : Site K) : Fin 3 → K :=
  ![FluctuatingMRTLatticeModel.kernel_collide.u_0 s,
    FluctuatingMRTLatticeModel.kernel_collide.u_1 s,
    FluctuatingMRTLatticeModel.kernel_collide.u_2 s]

/-- The velocity the loop body of `kernel_streamCollide` computes, by axis. -/
def FluctuatingMRTLatticeModel.kernel_streamCollide.u (s : Site K) : Fin 3 → K :=
  ![FluctuatingMRTLatticeModel.kernel_streamCollide.u_0 s,
    FluctuatingMRTLatticeModel.kernel_streamCollide.u_1 s,
    FluctuatingMRTLatticeModel.kernel_streamCollide.u_2 s]

namespace Example

/-- Parameters of the CPU lattice Boltzmann fluid: density 3, lattice spacing 2. -/
def lbparE : lb.LB_Parameters ℚ :=
  ⟨3, 1, 1, 2, 1, 1, fun _ => 0, 3, 0, 0, 0, 0, false, 0, fun _ => 0⟩

/-- Populations of the CPU lattice Boltzmann fluid: 1 in every slot of every node. -/
def lbfluidE : lb.LB_Fluid ℚ := fun _ _ => 1

/-- The cell `siteA` with the relaxation rate `omega_even = 3`, outside `[0, 2]`. -/
def siteW : Site ℚ :=
  ⟨sqrt0, philoxC, forceY, pdfsC, 4294967295, 0, 7, 1, 1, 3, 1, 1, 3, 4, 2, 1, 1⟩

end Example

/-! ## The cell records of the sweeps, and more concrete inputs -/

namespace FluctuatingMRTLatticeModel.Sweep

/-- The record of the loop body of `kernel_collide` when `Sweep::collide` reaches the cell
`(x, y, z)` of the block: the data pointers stand at the cell `(-g, -g, -g)` and the loops
start at 0, so the counters are `x + g`, `y + g`, `z + g`. -/
def collide_site (sqrt : K → K) (philox_double2 : Philox K) (block : Block K) (g : Nat)
    (x y z : Int) : Site K :=
  ⟨sqrt, philox_double2,
    block.lm.force_.dataAt (-(g : Int)) (-(g : Int)) (-(g : Int)),
    block.pdfs.dataAt (-(g : Int)) (-(g : Int)) (-(g : Int)),
    block.lm.block_offset_0_, block.lm.block_offset_1_, block.lm.block_offset_2_,
    block.lm.kT_, block.lm.omega_bulk_, block.lm.omega_even_, block.lm.omega_odd_,
    block.lm.omega_shear_, block.lm.seed_, block.lm.time_step_,
    x + g, y + g, z + g⟩

/-- The record of the loop body of `kernel_streamCollide` when `Sweep::streamCollide` reaches
the cell `(x, y, z)` of the block: the data pointers stand at the cell
`(-g - 1, -g - 1, -g - 1)` and the loops start at 1, so the counters are `x + g + 1`,
`y + g + 1`, `z + g + 1`. -/
def streamCollide_site (sqrt : K → K) (philox_double2 : Philox K) (block : Block K) (g : Nat)
    (x y z : Int) : Site K :=
  ⟨sqrt, philox_double2,
    block.lm.force_.dataAt (-(g : Int) - 1) (-(g : Int) - 1) (-(g : Int) - 1),
    block.pdfs.dataAt (-(g : Int) - 1) (-(g : Int) - 1) (-(g : Int) - 1),
    block.lm.block_offset_0_, block.lm.block_offset_1_, block.lm.block_offset_2_,
    block.lm.kT_, block.lm.omega_bulk_, block.lm.omega_even_, block.lm.omega_odd_,
    block.lm.omega_shear_, block.lm.seed_, block.lm.time_step_,
    x + g + 1, y + g + 1, z + g + 1⟩

end FluctuatingMRTLatticeModel.Sweep

namespace Example

/-- Populations 1 in the rest slot and 1 in slot 8 (velocity NE) of every cell. -/
def pdfsE : PdfField ℚ := fun _ _ _ q => if q = 0 then 1 else if q = 8 then 1 else 0

/-- The velocity of the populations `pdfsE`. -/
def uE : Fin 3 → ℚ := ![1 / 2, 1 / 2, 0]

end Example

/-! ## The x loops of the kernels, as lists of the indices visited -/

namespace FluctuatingMRTLatticeModel

end FluctuatingMRTLatticeModel

namespace FluctuatingMRTLatticeModelAvx

end FluctuatingMRTLatticeModelAvx

/-! ## The population accessors of the CPU lattice Boltzmann (`lb.hpp`, lines 347-357) -/

namespace lb

/-- The members of `LB_Model<19>` (lines 88-109); `n_veloc` is the constant 19. -/
structure LB_Model (K : Type) where
  c : Fin 19 → Fin 3 → K
  coeff : Fin 19 → Fin 4 → K
  w : Fin 19 → K
  e_ki : Fin 19 → Fin 19 → K
  w_k : Fin 19 → K
  c_sound_sq : K

/-- `lb_get_populations` (lines 347-351): the loop over `i < n_veloc` stores into `pop[i]`; the
result is the array `pop` after the call. -/
def lb_get_populations (lbmodel : LB_Model K) (lbpar : LB_Parameters K) (lbfluid : LB_Fluid K)
    (index : Nat) (pop : Fin 19 → K) : Fin 19 → K :=
  (List.finRange 19).foldl
    (fun pop i => Function.update pop i (lbfluid i index + lbmodel.coeff i 0 * lbpar.rho)) pop

/-- `lb_set_populations` (lines 353-357): the loop over `i < n_veloc` stores into
`lbfluid[i][index]`; the result is the global `lbfluid` after the call. -/
def lb_set_populations (lbmodel : LB_Model K) (lbpar : LB_Parameters K) (lbfluid : LB_Fluid K)
    (index : Nat) (pop : Fin 19 → K) : LB_Fluid K :=
  (List.finRange 19).foldl
    (fun lbfluid i => Function.update lbfluid i
      (Function.update (lbfluid i) index (pop i - lbmodel.coeff i 0 * lbpar.rho))) lbfluid

end lb

/-! ## Bonded interactions (`core/bonded_interactions/bonded_interaction_data.cpp`) -/

namespace bonded_interaction_data

/-- The enumerators and the feature switches named in `bonded_interaction_data.cpp`.  Their
declarations (`bonded_interaction_data.hpp` and the feature configuration) are not among the
sources, so their values are parameters: the enumerators are integers, a feature switch is
`true` when the name is defined. -/
structure Config where
  BONDED_IA_NONE : Int
  BONDED_IA_FENE : Int
  BONDED_IA_HARMONIC : Int
  BONDED_IA_THERMALIZED_DIST : Int
  BONDED_IA_RIGID_BOND : Int
  BONDED_IA_TABULATED : Int
  BONDED_IA_IBM_TRIEL : Int
  BONDED_IA_DIHEDRAL : Int
  TAB_BOND_LENGTH : Int
  TAB_BOND_DIHEDRAL : Int
  TABULATED : Bool
  IMMERSED_BOUNDARY : Bool

/-- The members of `p.fene` read in `recalc_maximal_cutoff_bonded`. -/
structure Fene_bond_parameters (F : Type) where
  r0 : F
  drmax : F

/-- The member of `p.harmonic` read in `recalc_maximal_cutoff_bonded`. -/
structure Harmonic_bond_parameters (F : Type) where
  r_cut : F

/-- The member of `p.thermalized_bond` read in `recalc_maximal_cutoff_bonded`. -/
structure Thermalized_bond_parameters (F : Type) where
  r_cut : F

/-- The member of `p.rigid_bond` read in `recalc_maximal_cutoff_bonded`. -/
structure Rigid_bond_parameters (F : Type) where
  d2 : F

/-- The members of `p.tab` read in `recalc_maximal_cutoff_bonded`: `type` and the value of
`pot->cutoff()`. -/
structure Tabulated_bond_parameters (F : Type) where
  type : Int
  pot_cutoff : F

/-- The member of `p.ibm_triel` read in `recalc_maximal_cutoff_bonded`. -/
structure IBM_Triel_Parameters (F : Type) where
  maxDist : F

/-- The union `p` of `Bonded_ia_parameters`, with the members this file reads; which one is
read is decided by `type`. -/
structure Bond_parameters (F : Type) where
  fene : Fene_bond_parameters F
  harmonic : Harmonic_bond_parameters F
  thermalized_bond : Thermalized_bond_parameters F
  rigid_bond : Rigid_bond_parameters F
  tab : Tabulated_bond_parameters F
  ibm_triel : IBM_Triel_Parameters F

/-- An entry of `bonded_ia_params`, with the members this file reads. -/
structure Bonded_ia_parameters (F : Type) where
  type : Int
  p : Bond_parameters F

section Cutoff

variable {F : Type} [LinearOrderedField F]

/-- The body of the first loop of `recalc_maximal_cutoff_bonded` (lines 15-51): the new value of
`max_cut_bonded` after the entry `b`.  The `switch` is the chain of comparisons with its case
labels, in the order of the source; the cases inside `#ifdef` are there when the feature is
switched on. -/
def recalc_maximal_cutoff_bonded.bond_length_step (C : Config) (sqrt : F → F)
    (max_cut_bonded : F) (b : Bonded_ia_parameters F) : F :=
  if b.type = C.BONDED_IA_FENE then
    let max_cut_tmp := b.p.fene.r0 + b.p.fene.drmax
    if max_cut_bonded < max_cut_tmp then max_cut_tmp else max_cut_bonded
  else if b.type = C.BONDED_IA_HARMONIC then
    if b.p.harmonic.r_cut > 0 ∧ max_cut_bonded < b.p.harmonic.r_cut then b.p.harmonic.r_cut
    else max_cut_bonded
  else if b.type = C.BONDED_IA_THERMALIZED_DIST then
    if b.p.thermalized_bond.r_cut > 0 ∧ max_cut_bonded < b.p.thermalized_bond.r_cut then
      b.p.thermalized_bond.r_cut
    else max_cut_bonded
  else if b.type = C.BONDED_IA_RIGID_BOND then
    if max_cut_bonded < sqrt b.p.rigid_bond.d2 then sqrt b.p.rigid_bond.d2 else max_cut_bonded
  else if C.TABULATED = true ∧ b.type = C.BONDED_IA_TABULATED then
    if b.p.tab.type = C.TAB_BOND_LENGTH ∧ max_cut_bonded < b.p.tab.pot_cutoff then
      b.p.tab.pot_cutoff
    else max_cut_bonded
  else if C.IMMERSED_BOUNDARY = true ∧ b.type = C.BONDED_IA_IBM_TRIEL then
    if max_cut_bonded < b.p.ibm_triel.maxDist then b.p.ibm_triel.maxDist else max_cut_bonded
  else max_cut_bonded

/-- The body of the second loop of `recalc_maximal_cutoff_bonded` (lines 65-77). -/
def recalc_maximal_cutoff_bonded.dihedral_step (C : Config) (max_cut_tmp max_cut_bonded : F)
    (b : Bonded_ia_parameters F) : F :=
  if b.type = C.BONDED_IA_DIHEDRAL then max_cut_tmp
  else if C.TABULATED = true ∧ b.type = C.BONDED_IA_TABULATED then
    if b.p.tab.type = C.TAB_BOND_DIHEDRAL then max_cut_tmp else max_cut_bonded
  else max_cut_bonded

/-- `recalc_maximal_cutoff_bonded` (lines 8-79).  The global `bonded_ia_params` is an argument,
the result is the global `max_cut_bonded` after the call; `sqrt` is a parameter. -/
def recalc_maximal_cutoff_bonded (C : Config) (sqrt : F → F)
    (bonded_ia_params : List (Bonded_ia_parameters F)) : F :=
  let max_cut_bonded :=
    bonded_ia_params.foldl (recalc_maximal_cutoff_bonded.bond_length_step C sqrt) 0
  let max_cut_tmp := 2 * max_cut_bonded
  bonded_ia_params.foldl (recalc_maximal_cutoff_bonded.dihedral_step C max_cut_tmp)
    max_cut_bonded

/-- The cutoff a bond contributes, in the words of the specification: a FENE bond
`r0 + drmax`, a harmonic and a thermalized-distance bond `r_cut` when `r_cut > 0`, a rigid bond
`sqrt(d2)`, every other type nothing. -/
def bond_length_cutoff (C : Config) (sqrt : F → F) (b : Bonded_ia_parameters F) : Option F :=
  if b.type = C.BONDED_IA_FENE then some (b.p.fene.r0 + b.p.fene.drmax)
  else if b.type = C.BONDED_IA_HARMONIC then
    if 0 < b.p.harmonic.r_cut then some b.p.harmonic.r_cut else none
  else if b.type = C.BONDED_IA_THERMALIZED_DIST then
    if 0 < b.p.thermalized_bond.r_cut then some b.p.thermalized_bond.r_cut else none
  else if b.type = C.BONDED_IA_RIGID_BOND then some (sqrt b.p.rigid_bond.d2)
  else none

/-- The maximum of 0 and the cutoffs of the bonds of a list, in the words of the
specification. -/
def maximal_bond_length_cutoff (C : Config) (sqrt : F → F)
    (bonded_ia_params : List (Bonded_ia_parameters F)) : F :=
  (bonded_ia_params.filterMap (bond_length_cutoff C sqrt)).foldr max 0

end Cutoff

/-- `make_bond_type_exist` (lines 82-93).  The global `bonded_ia_params` is an argument and the
result is its content after the call; `fresh` is the value-initialised entry that `resize`
appends.  `int` is read as the integers.  A negative `ns` is converted to a `size_t` beyond
any possible size, so that `resize` throws: the result is `none`. -/
def make_bond_type_exist {F : Type} (C : Config) (fresh : Bonded_ia_parameters F)
    (bonded_ia_params : List (Bonded_ia_parameters F)) (type : Int) :
    Option (List (Bonded_ia_parameters F)) :=
  let ns := type + 1
  let old_size := bonded_ia_params.length
  if ns < 0 then none
  else if ns ≤ (bonded_ia_params.length : Int) then some bonded_ia_params
  else
    some (forLoop (old_size : Int) ns 1
      (fun i params => List.modify (fun b => { b with type := C.BONDED_IA_NONE }) i.toNat params)
      (bonded_ia_params ++ List.replicate (ns.toNat - old_size) fresh))

end bonded_interaction_data

/-! ## Collision detection (`core/collision.hpp`) -/

namespace collision

/-- The members of `Particle::p` read in `collision.hpp`. -/
structure ParticleProperties where
  identity : Int
  type : Int

/-- The member of `Particle::l` read in `collision.hpp`. -/
structure ParticleLocal where
  ghost : Bool

/-- A `Particle`, with the members `collision.hpp` reads (`Particle.hpp` is not among the
sources). -/
structure Particle where
  p : ParticleProperties
  l : ParticleLocal

/-- The members of `Collision_parameters` (lines 48-112). -/
structure Collision_parameters (F : Type) where
  mode : Int
  distance2 : F
  bond_centers : Int
  bond_vs : Int
  exception_on_collision : Bool
  dist_glued_part_to_vs : F
  part_type_to_be_glued : Int
  part_type_to_attach_vs_to : Int
  part_type_after_glueing : Int
  bond_three_particles : Int
  three_particle_angle_resolution : Int
  vs_placement : F
  distance : F
  distance_cutoff : F
  rate : F
  particle_type : List Int
  particle_type_after_collision : List Int
  vs_particle_type : List Int
  distance_vs_particle : List F
  bond_type : Int
  vs_bond_type : Int

/-- `particle_type_criterion` (lines 141-150); `std::count` is `List.count`, and `return 0` is
`false`. -/
def particle_type_criterion {F : Type} (collision_params : Collision_parameters F)
    (p1 p2 : Particle) : Bool :=
  let count_multiples : Nat := if p1.p.type = p2.p.type then 2 else 1
  if collision_params.particle_type.count p1.p.type = count_multiples then
    (decide (count_multiples = 2)
      || decide (collision_params.particle_type.count p2.p.type > 0))
  else false

section Detect

variable {F : Type} [LinearOrderedField F]

/-- `collision_detection_criterion` (lines 152-156).  The value returned by the call of
`d_random()` and the global `time_step` are arguments.  When `rate > 0` does not hold the
function ends without a `return` statement and has no value: the result is `none`. -/
def collision_detection_criterion (d_random time_step : F)
    (collision_params : Collision_parameters F) (p1 p2 : Particle) : Option Bool :=
  if collision_params.rate > 0 then some (decide (d_random < collision_params.rate * time_step))
  else none

/-- `detect_collision` (lines 159-186).  `pair_bond_exists_on` (declared elsewhere) is a
parameter.  The result lists the arguments of the calls of `queue_collision`: the empty list
when the function returns before it, and `none` when `collision_detection_criterion` has no
value. -/
def detect_collision (pair_bond_exists_on : Particle → Particle → Int → Bool)
    (d_random time_step : F) (collision_params : Collision_parameters F) (p1 p2 : Particle)
    (dist_betw_part2 : F) : Option (List (List Int)) :=
  if dist_betw_part2 > collision_params.distance then some []
  else if !particle_type_criterion collision_params p1 p2 then some []
  else if pair_bond_exists_on p1 p2 collision_params.bond_centers then some []
  else if pair_bond_exists_on p2 p1 collision_params.bond_centers then some []
  else
    match collision_detection_criterion d_random time_step collision_params p1 p2 with
    | none => none
    | some criterion =>
      if !criterion then some []
      else if p1.l.ghost && p2.l.ghost then some []
      else some [[p1.p.identity, p2.p.identity]]

end Detect

end collision

/-! ## The reaction field (`core/electrostatics_magnetostatics/reaction_field.cpp`) -/

namespace reaction_field

/-- The members of `Reaction_field_params` assigned in `rf_set_params`. -/
structure Reaction_field_params (F : Type) where
  kappa : F
  epsilon1 : F
  epsilon2 : F
  r_cut : F
  B : F

/-- What a call of `rf_set_params` leaves behind: the value returned, the global `rf_params`
and the number of calls of `mpi_bcast_coulomb_params` made. -/
structure Outcome (F : Type) where
  value : Int
  rf_params : Reaction_field_params F
  broadcasts : Nat

/-- `rf_set_params` (lines 32-54); the global `rf_params` before the call is an argument. -/
def rf_set_params {F : Type} [LinearOrderedField F] (rf_params : Reaction_field_params F)
    (kappa epsilon1 epsilon2 r_cut : F) : Outcome F :=
  let rf_params := { rf_params with kappa := kappa }
  let rf_params := { rf_params with epsilon1 := epsilon1 }
  let rf_params := { rf_params with epsilon2 := epsilon2 }
  let rf_params := { rf_params with r_cut := r_cut }
  let rf_params := { rf_params with
    B := (2 * (epsilon1 - epsilon2) * (1 + kappa * r_cut) -
            epsilon2 * kappa * kappa * r_cut * r_cut) /
          ((epsilon1 + 2 * epsilon2) * (1 + kappa * r_cut) +
            epsilon2 * kappa * kappa * r_cut * r_cut) }
  if rf_params.epsilon1 < 0 then ⟨-1, rf_params, 0⟩
  else if rf_params.epsilon2 < 0 then ⟨-1, rf_params, 0⟩
  else if rf_params.r_cut < 0 then ⟨-2, rf_params, 0⟩
  else ⟨1, rf_params, 1⟩

end reaction_field

/-! ## The inner product (`core/utils/inner_product.hpp`) -/

namespace Utils

/-- `inner_product_impl<I, N, T>::operator()` (lines 8-28).  The partial specialisation
`<N-1, N, T>` is the instance with `I = N - 1`; every other instance calls the instance
`I + 1`.  The index `I` is within the arrays. -/
def inner_product_impl {N : Nat} (left_array : Fin N → Int) (right_array : Fin N → K)
    (I : Nat) (hI : I < N) : K :=
  if h : I = N - 1 then
    if left_array ⟨I, hI⟩ = 0 then 0
    else (left_array ⟨I, hI⟩ : K) * right_array ⟨I, hI⟩
  else
    if left_array ⟨I, hI⟩ = 0 then
      inner_product_impl left_array right_array (I + 1) (by omega)
    else
      (left_array ⟨I, hI⟩ : K) * right_array ⟨I, hI⟩
        + inner_product_impl left_array right_array (I + 1) (by omega)
termination_by N - I
decreasing_by all_goals omega

/-- `inner_product` (lines 31-34), for arrays of length `N ≥ 1`. -/
def inner_product {N : Nat} (hN : 0 < N) (left_array : Fin N → Int) (right_array : Fin N → K)
    (init : K) : K :=
  init + inner_product_impl left_array right_array 0 hN

end Utils

namespace Example

/-- A configuration with the enumerators numbered from -1 and both features switched off. -/
def configE : bonded_interaction_data.Config :=
  ⟨-1, 0, 1, 2, 3, 4, 5, 6, 1, 3, false, false⟩

/-- A bond of the given type with FENE parameters `r0 = 1`, `drmax = 2`, harmonic `r_cut = 4`,
thermalized `r_cut = 1`, rigid `d2 = 9`, and zero elsewhere. -/
def bondE (type : Int) : bonded_interaction_data.Bonded_ia_parameters ℚ :=
  ⟨type, ⟨⟨1, 2⟩, ⟨4⟩, ⟨1⟩, ⟨9⟩, ⟨0, 0⟩, ⟨0⟩⟩⟩

/-- A stand-in for `sqrt` on the rationals, right at 9. -/
def sqrtE (x : ℚ) : ℚ := if x = 9 then 3 else 0

/-- Collision parameters with `distance = 1/4` (and `distance2 = 1/16`), the particle types
`0, 1`, and `rate = 1`. -/
def collisionE : collision.Collision_parameters ℚ :=
  ⟨2, 1 / 16, 0, 0, false, 0, 0, 0, 0, 0, 0, 0, 1 / 4, 1 / 4, 1, [0, 1], [], [], [], 0, 0⟩

/-- Collision parameters whose list of particle types holds type 1 twice. -/
def collisionD : collision.Collision_parameters ℚ :=
  ⟨2, 1 / 16, 0, 0, false, 0, 0, 0, 0, 0, 0, 0, 1 / 4, 1 / 4, 1, [0, 1, 1], [], [], [], 0, 0⟩

/-- A particle that is not a ghost. -/
def particleE (identity type : Int) : collision.Particle := ⟨⟨identity, type⟩, ⟨false⟩⟩

/-- No pair of particles is bonded. -/
def noBond : collision.Particle → collision.Particle → Int → Bool := fun _ _ _ => false

/-- The value-initialised `rf_params` of line 30. -/
def rfZero : reaction_field.Reaction_field_params ℚ := ⟨0, 0, 0, 0, 0⟩

/-- A population field that agrees with `pdfsC` on the box `[0, 2]^3` and holds 5 elsewhere. -/
def pdfsH : PdfField ℚ :=
  fun x y z q =>
    if (0 ≤ x ∧ x ≤ 3 - 1) ∧ (0 ≤ y ∧ y ≤ 3 - 1) ∧ (0 ≤ z ∧ z ≤ 3 - 1) then pdfsC x y z q
    else 5

/-- A force field that agrees with `forceY` on the cell `(1, 1, 1)` and holds 7 elsewhere. -/
def forceH : ForceField ℚ :=
  fun x y z a =>
    if (1 ≤ x ∧ x ≤ 3 - 2) ∧ (1 ≤ y ∧ y ≤ 3 - 2) ∧ (1 ≤ z ∧ z ≤ 3 - 2) then forceY x y z a
    else 7

/-- A force field that agrees with `forceY` on the box `[0, 2]^3` and holds 7 elsewhere. -/
def forceI : ForceField ℚ :=
  fun x y z a =>
    if (0 ≤ x ∧ x ≤ 3 - 1) ∧ (0 ≤ y ∧ y ≤ 3 - 1) ∧ (0 ≤ z ∧ z ≤ 3 - 1) then forceY x y z a
    else 7

/-- A lattice model whose coefficients `coeff[i][0]` are the lattice weights. -/
def lbmodelE : lb.LB_Model ℚ :=
  ⟨fun _ _ => 0, fun i _ => FluctuatingMRTLatticeModel.w i, FluctuatingMRTLatticeModel.w,
    fun _ _ => 0, fun _ => 1, 1 / 3⟩

end Example

/-! ## The relaxation rates in binary64 arithmetic

`real_t` is `double`.  Everywhere else `double` is read as an exact field; for the two methods
of `LBWalberlaD3Q19FluctuatingMRT.hpp` that derive the relaxation rates from the viscosity the
rounding of each operation decides whether a rate stays strictly inside `(0, 2)`, so these two
methods are given a second time, over the binary64 values below. -/

/-- A value of type `double`.  `finite m e` is the number `m * 2^e`, kept in the form
`m = 0`, `e = 0` (zero) or `2^52 ≤ |m| < 2^53`, `-1074 ≤ e ≤ 971` (a normal number).  `other`
is every value that is not followed further: an infinity, a NaN, or a result that falls in the
subnormal range.  The sign of a zero is not kept. -/
inductive Binary64 where
  | finite (m : Int) (e : Int) : Binary64
  | other : Binary64
deriving DecidableEq

namespace Binary64

/-- The numerator and the denominator of `num / (den * 2^e)`. -/
def scaled (num den : Nat) (e : Int) : Nat × Nat :=
  if 0 ≤ e then (num, den * 2 ^ e.toNat) else (num * 2 ^ (-e).toNat, den)

/-- The position of the leading bit of `n`, that is `floor (log2 n)`, for `0 < n ≤ fuel`: the
number of halvings that bring `n` below 2. -/
def log2 : Nat → Nat → Nat
  | 0, _ => 0
  | fuel + 1, n => if n < 2 then 0 else log2 fuel (n / 2) + 1

/-- Rounding to binary64 in the default mode (to nearest, ties to even): the `double` that an
operation with the exact result `num / den` (negated when `negative`) returns.  The exponent
`e` is the one with `2^52 ≤ num / (den * 2^e) < 2^53`; `q` is the significand, rounded from
the quotient and the remainder.  An overflow or a result below the normal range is `other`. -/
def round (negative : Bool) (num den : Nat) : Binary64 :=
  if den = 0 then other
  else if num = 0 then finite 0 0
  else
    let e0 : Int := (log2 num num : Int) - (log2 den den : Int) - 53
    let e : Int := if 2 ^ 53 ≤ (scaled num den e0).1 / (scaled num den e0).2 then e0 + 1 else e0
    let n : Nat := (scaled num den e).1
    let d : Nat := (scaled num den e).2
    let q : Nat := if d < 2 * (n % d) ∨ (d = 2 * (n % d) ∧ (n / d) % 2 = 1) then n / d + 1 else n / d
    let e : Int := if q = 2 ^ 53 then e + 1 else e
    let q : Nat := if q = 2 ^ 53 then 2 ^ 52 else q
    if -1074 ≤ e ∧ e ≤ 971 then finite (if negative then -(q : Int) else (q : Int)) e else other

/-- The `double` nearest to the exact number `m * 2^e`. -/
def ofScaled (m e : Int) : Binary64 :=
  if 0 ≤ e then round (decide (m < 0)) (m.natAbs * 2 ^ e.toNat) 1
  else round (decide (m < 0)) m.natAbs (2 ^ (-e).toNat)

/-- The operator `+` of `double`: the exact sum, rounded. -/
def add : Binary64 → Binary64 → Binary64
  | finite m1 e1, finite m2 e2 =>
    ofScaled (m1 * ((2 ^ (e1 - min e1 e2).toNat : Nat) : Int)
      + m2 * ((2 ^ (e2 - min e1 e2).toNat : Nat) : Int)) (min e1 e2)
  | _, _ => other

/-- The operator `-` of `double`: the exact difference, rounded. -/
def sub : Binary64 → Binary64 → Binary64
  | finite m1 e1, finite m2 e2 =>
    ofScaled (m1 * ((2 ^ (e1 - min e1 e2).toNat : Nat) : Int)
      - m2 * ((2 ^ (e2 - min e1 e2).toNat : Nat) : Int)) (min e1 e2)
  | _, _ => other

/-- The operator `*` of `double`: the exact product, rounded. -/
def mul : Binary64 → Binary64 → Binary64
  | finite m1 e1, finite m2 e2 => ofScaled (m1 * m2) (e1 + e2)
  | _, _ => other

/-- The operator `/` of `double`: the exact quotient, rounded.  A division by zero gives an
infinity or a NaN, which is `other`. -/
def div : Binary64 → Binary64 → Binary64
  | finite m1 e1, finite m2 e2 =>
    if m2 = 0 then other
    else if e2 ≤ e1 then
      round (decide ((m1 < 0) ≠ (m2 < 0))) (m1.natAbs * 2 ^ (e1 - e2).toNat) m2.natAbs
    else round (decide ((m1 < 0) ≠ (m2 < 0))) m1.natAbs (m2.natAbs * 2 ^ (e2 - e1).toNat)
  | _, _ => other

instance : Add Binary64 := ⟨add⟩

instance : Sub Binary64 := ⟨sub⟩

instance : Mul Binary64 := ⟨mul⟩

instance : Div Binary64 := ⟨div⟩

/-- An integer literal in an expression of type `double`: its conversion. -/
instance (n : Nat) : OfNat Binary64 n := ⟨round false n 1⟩

/-- The number a `double` stands for; `none` for `other`. -/
def toRat : Binary64 → Option ℚ
  | finite m e => some ((m : ℚ) * (2 : ℚ) ^ e)
  | other => none

/-- `LBWalberlaD3Q19FluctuatingMRT::construct_lattice_model` (lines 11-23) with the arithmetic
of `double`: each operator rounds.  `real_c` converts to `real_t`, which is `double`. -/
def construct_lattice_model {I T : Type}
    (LatticeModel : LBWalberlaD3Q19FluctuatingMRT.LatticeModelCtor Binary64 I)
    (self : LBWalberlaD3Q19FluctuatingMRT Binary64 I T) (viscosity kT : Binary64) (seed : Nat) :
    LBWalberlaD3Q19FluctuatingMRT Binary64 I T :=
  let omega : Binary64 := 2 / (6 * viscosity + 1)
  let magic_number : Binary64 := 3 / 16
  let omega_2 : Binary64 := (4 - 2 * omega) / (4 * magic_number * omega + 2 - omega)
  { self with
    m_lattice_model :=
      LatticeModel self.m_last_applied_force_field_id kT omega omega omega_2 omega 1 seed }

/-- `LBWalberlaD3Q19FluctuatingMRT::set_viscosity` (lines 24-35) with the arithmetic of
`double`: each operator rounds.  `on_lattice_model_change` is a parameter, as before. -/
def set_viscosity {I T : Type}
    (on_lattice_model_change : FluctuatingMRTLatticeModel.LatticeModel Binary64 → T → T)
    (self : LBWalberlaD3Q19FluctuatingMRT Binary64 I T) (viscosity : Binary64) :
    LBWalberlaD3Q19FluctuatingMRT Binary64 I T :=
  let lm := self.m_lattice_model
  let omega : Binary64 := 2 / (6 * viscosity + 1)
  let magic_number : Binary64 := 3 / 16
  let omega_2 : Binary64 := (4 - 2 * omega) / (4 * magic_number * omega + 2 - omega)
  let lm := { lm with omega_shear_ := omega }
  let lm := { lm with omega_odd_ := omega_2 }
  let lm := { lm with omega_even_ := omega }
  let lm := { lm with omega_bulk_ := omega }
  { self with
    m_lattice_model := lm
    m_time_loop := on_lattice_model_change lm self.m_time_loop }

end Binary64

namespace Example

/-- A constructor over `double` that keeps its arguments in the order of the call. -/
def latticeModelCtorB : LBWalberlaD3Q19FluctuatingMRT.LatticeModelCtor Binary64 Unit :=
  fun _ kT omega_bulk omega_even omega_odd omega_shear a b =>
    ⟨⟨fun _ _ _ _ => 0, 1, 1, 1, 1⟩, omega_even, omega_odd, 0, 0, omega_shear, 0, omega_bulk, b,
      kT, a⟩

/-- An object over `double` with all four relaxation rates 1, `kT_ = 2`, seed 7. -/
def lbB : LBWalberlaD3Q19FluctuatingMRT Binary64 Unit Nat :=
  ⟨⟨⟨fun _ _ _ _ => 0, 1, 1, 1, 1⟩, 1, 1, 0, 0, 1, 0, 1, 7, 2, 0⟩, (), 2, 0⟩

/-- The viscosity `2^60` as a `double`. -/
def viscosityLarge : Binary64 := Binary64.finite (2 ^ 52) 8

/-- The viscosity `2^(-60)` as a `double`. -/
def viscositySmall : Binary64 := Binary64.finite (2 ^ 52) (-112)

end Example

/-! ## Loops that write cells

Closed forms of the loop nests: a cell inside the visited range holds `G` of the initial
state, every other cell is untouched. -/

theorem foldl_sites {ι : Type} (A : ι → Int → Int → Int → Prop)
    (G : PdfField K → Int → Int → Int → Fin 19 → K)
    (hG : ∀ f f' x y z, (∀ q, f x y z q = f' x y z q) → ∀ q, G f x y z q = G f' x y z q)
    (U : ι → PdfField K → PdfField K)
    (hU1 : ∀ i f x y z q, A i x y z → U i f x y z q = G f x y z q)
    (hU0 : ∀ i f x y z q, ¬ A i x y z → U i f x y z q = f x y z q)
    (l : List ι) (hl : l.Pairwise (fun i j => ∀ x y z, A i x y z → ¬ A j x y z))
    (f : PdfField K) (x y z : Int) (q : Fin 19) :
    ((∃ i ∈ l, A i x y z) → l.foldl (fun acc i => U i acc) f x y z q = G f x y z q) ∧
    ((¬ ∃ i ∈ l, A i x y z) → l.foldl (fun acc i => U i acc) f x y z q = f x y z q) := by
  induction l generalizing f with
  | nil =>
    refine ⟨fun h => ?_, fun _ => rfl⟩
    obtain ⟨i, hi, _⟩ := h
    cases hi
  | cons a l ih =>
    rw [List.pairwise_cons] at hl
    have ih' := ih hl.2 (U a f)
    simp only [List.foldl_cons]
    by_cases ha : A a x y z
    · have hno : ¬ ∃ i ∈ l, A i x y z := by
        rintro ⟨i, hi, hAi⟩
        exact hl.1 i hi x y z ha hAi
      refine ⟨fun _ => ?_, fun h => absurd ⟨a, List.mem_cons_self a l, ha⟩ h⟩
      rw [ih'.2 hno, hU1 a f x y z q ha]
    · refine ⟨fun h => ?_, fun h => ?_⟩
      · have hex : ∃ i ∈ l, A i x y z := by
          obtain ⟨i, hi, hAi⟩ := h
          rcases List.mem_cons.1 hi with rfl | hi'
          · exact absurd hAi ha
          · exact ⟨i, hi', hAi⟩
        rw [ih'.1 hex]
        exact hG _ _ x y z (fun q' => hU0 a f x y z q' ha) q
      · have hno : ¬ ∃ i ∈ l, A i x y z :=
          fun ⟨i, hi, hAi⟩ => h ⟨i, List.mem_cons_of_mem a hi, hAi⟩
        rw [ih'.2 hno, hU0 a f x y z q ha]

theorem storeSite_apply (fld : PdfField K) (x y z : Int) (v : Fin 19 → K) (x' y' z' : Int)
    (q : Fin 19) :
    storeSite fld x y z v x' y' z' q = if x' = x ∧ y' = y ∧ z' = z then v q else fld x' y' z' q :=
  rfl

/-- A unit-step loop over the value `i` of one coordinate, each iteration rewriting the cells
of `B` whose coordinate is `i`. -/
theorem forLoop_closed (G : PdfField K → Int → Int → Int → Fin 19 → K)
    (hG : ∀ f f' x y z, (∀ q, f x y z q = f' x y z q) → ∀ q, G f x y z q = G f' x y z q)
    (B : Int → Int → Int → Prop) (coord : Int → Int → Int → Int)
    (U : Int → PdfField K → PdfField K)
    (hU1 : ∀ i f x y z q, B x y z ∧ coord x y z = i → U i f x y z q = G f x y z q)
    (hU0 : ∀ i f x y z q, ¬ (B x y z ∧ coord x y z = i) → U i f x y z q = f x y z q)
    (lo hi : Int) (f : PdfField K) (x y z : Int) (q : Fin 19) :
    (B x y z ∧ lo ≤ coord x y z ∧ coord x y z < hi → forLoop lo hi 1 U f x y z q = G f x y z q) ∧
    (¬ (B x y z ∧ lo ≤ coord x y z ∧ coord x y z < hi) → forLoop lo hi 1 U f x y z q = f x y z q) := by
  have key := foldl_sites
    (fun (k : Nat) x'' y'' z'' => B x'' y'' z'' ∧ coord x'' y'' z'' = lo + 1 * (k : Int)) G hG
    (fun (k : Nat) acc => U (lo + 1 * (k : Int)) acc)
    (fun k f x y z q h => hU1 _ f x y z q h)
    (fun k f x y z q h => hU0 _ f x y z q h)
    (List.range ((hi - lo + 1 - 1) / 1).toNat)
    (by
      refine List.Pairwise.imp_of_mem ?_ (List.pairwise_lt_range _)
      intro a b _ _ hab x y z h1 h2
      have := h1.2
      have := h2.2
      omega)
    f x y z q
  unfold forLoop
  refine ⟨fun h => key.1 ⟨(coord x y z - lo).toNat, ?_, h.1, ?_⟩, fun h => key.2 ?_⟩
  · rw [List.mem_range]; omega
  · omega
  · rintro ⟨k, hk, h1, h2⟩
    rw [List.mem_range] at hk
    exact h ⟨h1, by omega, by omega⟩

/-- Closed form of a three-deep loop nest whose x loop has the closed form `hR`. -/
theorem forLoop_rows (G : PdfField K → Int → Int → Int → Fin 19 → K)
    (hG : ∀ f f' x y z, (∀ q, f x y z q = f' x y z q) → ∀ q, G f x y z q = G f' x y z q)
    (X : Int → Prop) (R : Int → Int → PdfField K → PdfField K)
    (hR1 : ∀ j k f x y z q, X x ∧ y = j ∧ z = k → R j k f x y z q = G f x y z q)
    (hR0 : ∀ j k f x y z q, ¬ (X x ∧ y = j ∧ z = k) → R j k f x y z q = f x y z q)
    (lo1 hi1 lo2 hi2 : Int) (f : PdfField K) (x y z : Int) (q : Fin 19) :
    (X x ∧ (lo1 ≤ y ∧ y < hi1) ∧ (lo2 ≤ z ∧ z < hi2) →
      forLoop lo2 hi2 1 (fun k acc => forLoop lo1 hi1 1 (fun j acc => R j k acc) acc) f x y z q
        = G f x y z q) ∧
    (¬ (X x ∧ (lo1 ≤ y ∧ y < hi1) ∧ (lo2 ≤ z ∧ z < hi2)) →
      forLoop lo2 hi2 1 (fun k acc => forLoop lo1 hi1 1 (fun j acc => R j k acc) acc) f x y z q
        = f x y z q) := by
  have inner : ∀ k f x y z q,
      ((X x ∧ z = k) ∧ lo1 ≤ y ∧ y < hi1 →
        forLoop lo1 hi1 1 (fun j acc => R j k acc) f x y z q = G f x y z q) ∧
      (¬ ((X x ∧ z = k) ∧ lo1 ≤ y ∧ y < hi1) →
        forLoop lo1 hi1 1 (fun j acc => R j k acc) f x y z q = f x y z q) := by
    intro k f x y z q
    exact forLoop_closed G hG (fun x _ z => X x ∧ z = k) (fun _ y _ => y)
      (fun j acc => R j k acc)
      (fun j f x y z q h => hR1 j k f x y z q ⟨h.1.1, h.2, h.1.2⟩)
      (fun j f x y z q h => hR0 j k f x y z q (fun h' => h ⟨⟨h'.1, h'.2.2⟩, h'.2.1⟩))
      lo1 hi1 f x y z q
  have outer := forLoop_closed G hG (fun x y _ => X x ∧ lo1 ≤ y ∧ y < hi1) (fun _ _ z => z)
      (fun k acc => forLoop lo1 hi1 1 (fun j acc => R j k acc) acc)
      (fun k f x y z q h => (inner k f x y z q).1 ⟨⟨h.1.1, h.2⟩, h.1.2⟩)
      (fun k f x y z q h => (inner k f x y z q).2 (fun h' => h ⟨⟨h'.1.1, h'.2⟩, h'.1.2⟩))
      lo2 hi2 f x y z q
  exact ⟨fun h => outer.1 ⟨⟨h.1, h.2.1⟩, h.2.2⟩, fun h => outer.2 (fun h' => h ⟨h'.1.1, h'.1.2, h'.2⟩)⟩

/-- The scalar x loop. -/
theorem forLoop_storeSite (G : PdfField K → Int → Int → Int → Fin 19 → K)
    (hG : ∀ f f' x y z, (∀ q, f x y z q = f' x y z q) → ∀ q, G f x y z q = G f' x y z q)
    (lo hi j k : Int) (f : PdfField K) (x y z : Int) (q : Fin 19) :
    ((lo ≤ x ∧ x < hi) ∧ y = j ∧ z = k →
      forLoop lo hi 1 (fun i acc => storeSite acc i j k (G acc i j k)) f x y z q = G f x y z q) ∧
    (¬ ((lo ≤ x ∧ x < hi) ∧ y = j ∧ z = k) →
      forLoop lo hi 1 (fun i acc => storeSite acc i j k (G acc i j k)) f x y z q = f x y z q) := by
  have key := forLoop_closed G hG (fun _ y z => y = j ∧ z = k) (fun x _ _ => x)
    (fun i acc => storeSite acc i j k (G acc i j k))
    (by
      intro i f x y z q h
      obtain ⟨⟨h2, h3⟩, h1⟩ := h
      subst h1 h2 h3
      simp [storeSite_apply])
    (by
      intro i f x y z q h
      show storeSite _ _ _ _ _ _ _ _ _ = _
      rw [storeSite_apply, if_neg (fun h' => h ⟨h'.2, h'.1⟩)])
    lo hi f x y z q
  exact ⟨fun h => key.1 ⟨h.2, h.1⟩, fun h => key.2 (fun h' => h ⟨h'.2, h'.1⟩)⟩

/-- Closed form of a scalar kernel loop nest. -/
theorem scalar_nest (G : PdfField K → Int → Int → Int → Fin 19 → K)
    (hG : ∀ f f' x y z, (∀ q, f x y z q = f' x y z q) → ∀ q, G f x y z q = G f' x y z q)
    (lo0 hi0 lo1 hi1 lo2 hi2 : Int) (f : PdfField K) (x y z : Int) (q : Fin 19) :
    forLoop lo2 hi2 1 (fun ctr_2 acc => forLoop lo1 hi1 1 (fun ctr_1 acc =>
      forLoop lo0 hi0 1 (fun ctr_0 acc => storeSite acc ctr_0 ctr_1 ctr_2 (G acc ctr_0 ctr_1 ctr_2))
        acc) acc) f x y z q =
      if (lo0 ≤ x ∧ x < hi0) ∧ (lo1 ≤ y ∧ y < hi1) ∧ (lo2 ≤ z ∧ z < hi2) then G f x y z q
      else f x y z q := by
  have key := forLoop_rows G hG (fun x => lo0 ≤ x ∧ x < hi0)
    (fun j k acc => forLoop lo0 hi0 1 (fun i acc => storeSite acc i j k (G acc i j k)) acc)
    (fun j k f x y z q h => (forLoop_storeSite G hG lo0 hi0 j k f x y z q).1 h)
    (fun j k f x y z q h => (forLoop_storeSite G hG lo0 hi0 j k f x y z q).2 h)
    lo1 hi1 lo2 hi2 f x y z q
  split
  · next h => exact key.1 h
  · next h => exact key.2 h


theorem storeLanes_apply_of_mem (fld : PdfField K) (x y z : Int) (v : Fin 19 → Fin 4 → K)
    (x' y' z' : Int) (q : Fin 19) (h : x ≤ x' ∧ x' < x + 4 ∧ y' = y ∧ z' = z) :
    storeLanes fld x y z v x' y' z' q = v q ⟨(x' - x).toNat, by omega⟩ := by
  unfold storeLanes
  rw [dif_pos h]

theorem storeLanes_apply_of_not_mem (fld : PdfField K) (x y z : Int) (v : Fin 19 → Fin 4 → K)
    (x' y' z' : Int) (q : Fin 19) (h : ¬ (x ≤ x' ∧ x' < x + 4 ∧ y' = y ∧ z' = z)) :
    storeLanes fld x y z v x' y' z' q = fld x' y' z' q := by
  unfold storeLanes
  rw [dif_neg h]

/-- The vectorised x loop: `V` is the four-lane body, lane `l` of which computes `G` at the
cell `i + l`. -/
theorem forLoop_storeLanes (G : PdfField K → Int → Int → Int → Fin 19 → K)
    (hG : ∀ f f' x y z, (∀ q, f x y z q = f' x y z q) → ∀ q, G f x y z q = G f' x y z q)
    (V : PdfField K → Int → Int → Int → Fin 19 → Fin 4 → K)
    (hV : ∀ f i j k q (l : Fin 4), V f i j k q l = G f (i + ((l : Nat) : Int)) j k q)
    (lo hi j k : Int) (f : PdfField K) (x y z : Int) (q : Fin 19) :
    ((lo ≤ x ∧ x < lo + 4 * (((hi - lo + 4 - 1) / 4).toNat : Int)) ∧ y = j ∧ z = k →
      forLoop lo hi 4 (fun i acc => storeLanes acc i j k (V acc i j k)) f x y z q = G f x y z q) ∧
    (¬ ((lo ≤ x ∧ x < lo + 4 * (((hi - lo + 4 - 1) / 4).toNat : Int)) ∧ y = j ∧ z = k) →
      forLoop lo hi 4 (fun i acc => storeLanes acc i j k (V acc i j k)) f x y z q = f x y z q) := by
  have key := foldl_sites
    (fun (n : Nat) x'' y'' z'' =>
      lo + 4 * (n : Int) ≤ x'' ∧ x'' < lo + 4 * (n : Int) + 4 ∧ y'' = j ∧ z'' = k) G hG
    (fun (n : Nat) acc => storeLanes acc (lo + 4 * (n : Int)) j k (V acc (lo + 4 * (n : Int)) j k))
    (by
      intro n f x y z q h
      show storeLanes _ _ _ _ _ _ _ _ _ = _
      rw [storeLanes_apply_of_mem _ _ _ _ _ _ _ _ _ h, hV]
      obtain ⟨h1, h2, h3, h4⟩ := h
      subst h3 h4
      congr 1
      simp only []
      omega)
    (by
      intro n f x y z q h
      show storeLanes _ _ _ _ _ _ _ _ _ = _
      rw [storeLanes_apply_of_not_mem _ _ _ _ _ _ _ _ _ h])
    (List.range ((hi - lo + 4 - 1) / 4).toNat)
    (by
      refine List.Pairwise.imp_of_mem ?_ (List.pairwise_lt_range _)
      intro a b _ _ hab x y z h1 h2
      omega)
    f x y z q
  unfold forLoop
  refine ⟨fun h => key.1 ⟨((x - lo) / 4).toNat, ?_, ?_⟩, fun h => key.2 ?_⟩
  · rw [List.mem_range]; omega
  · refine ⟨?_, ?_, h.2.1, h.2.2⟩ <;> omega
  · rintro ⟨n, hn, h1, h2, h3, h4⟩
    rw [List.mem_range] at hn
    exact h ⟨⟨by omega, by omega⟩, h3, h4⟩

/-- Closed form of an AVX kernel loop nest. -/
theorem avx_nest (G : PdfField K → Int → Int → Int → Fin 19 → K)
    (hG : ∀ f f' x y z, (∀ q, f x y z q = f' x y z q) → ∀ q, G f x y z q = G f' x y z q)
    (V : PdfField K → Int → Int → Int → Fin 19 → Fin 4 → K)
    (hV : ∀ f i j k q (l : Fin 4), V f i j k q l = G f (i + ((l : Nat) : Int)) j k q)
    (lo0 hi0 lo1 hi1 lo2 hi2 : Int) (f : PdfField K) (x y z : Int) (q : Fin 19) :
    forLoop lo2 hi2 1 (fun ctr_2 acc => forLoop lo1 hi1 1 (fun ctr_1 acc =>
      forLoop lo0 hi0 4 (fun ctr_0 acc => storeLanes acc ctr_0 ctr_1 ctr_2 (V acc ctr_0 ctr_1 ctr_2))
        acc) acc) f x y z q =
      if (lo0 ≤ x ∧ x < lo0 + 4 * (((hi0 - lo0 + 4 - 1) / 4).toNat : Int)) ∧
          (lo1 ≤ y ∧ y < hi1) ∧ (lo2 ≤ z ∧ z < hi2) then G f x y z q
      else f x y z q := by
  have key := forLoop_rows G hG
    (fun x => lo0 ≤ x ∧ x < lo0 + 4 * (((hi0 - lo0 + 4 - 1) / 4).toNat : Int))
    (fun j k acc => forLoop lo0 hi0 4 (fun i acc => storeLanes acc i j k (V acc i j k)) acc)
    (fun j k f x y z q h => (forLoop_storeLanes G hG V hV lo0 hi0 j k f x y z q).1 h)
    (fun j k f x y z q h => (forLoop_storeLanes G hG V hV lo0 hi0 j k f x y z q).2 h)
    lo1 hi1 lo2 hi2 f x y z q
  split
  · next h => exact key.1 h
  · next h => exact key.2 h

/-- For a non-negative extent the vectorised loop bound is the extent rounded up to the next
multiple of four. -/
theorem roundUp4_spec (n : Int) (hn : 0 ≤ n) :
    n ≤ roundUp4 n ∧ roundUp4 n < n + 4 ∧ roundUp4 n % 4 = 0 := by
  unfold roundUp4
  rw [Int.tmod_eq_emod hn (by decide), Int.tdiv_eq_ediv hn (by decide)]
  split <;> omega

theorem roundUp4_count (n lo : Int) (hn : 0 ≤ n) :
    lo + 4 * ((((roundUp4 n + lo) - lo + 4 - 1) / 4).toNat : Int) = lo + roundUp4 n := by
  obtain ⟨h1, h2, h3⟩ := roundUp4_spec n hn
  omega


/-! ## Sums over the nineteen slots -/

theorem sum19 (v : Fin 19 → K) :
    ∑ i, v i = v 0 + v 1 + v 2 + v 3 + v 4 + v 5 + v 6 + v 7 + v 8 + v 9 + v 10 + v 11 + v 12
      + v 13 + v 14 + v 15 + v 16 + v 17 + v 18 := by
  simp only [Fin.sum_univ_succ, Fin.sum_univ_zero]
  simp only [add_zero, ← add_assoc]
  rfl

theorem forall_fin19 (P : Fin 19 → Prop) :
    (∀ q, P q) ↔ P 0 ∧ P 1 ∧ P 2 ∧ P 3 ∧ P 4 ∧ P 5 ∧ P 6 ∧ P 7 ∧ P 8 ∧ P 9 ∧ P 10 ∧ P 11 ∧ P 12
      ∧ P 13 ∧ P 14 ∧ P 15 ∧ P 16 ∧ P 17 ∧ P 18 := by
  constructor
  · intro h
    exact ⟨h _, h _, h _, h _, h _, h _, h _, h _, h _, h _, h _, h _, h _, h _, h _, h _, h _,
      h _, h _⟩
  · rintro ⟨h0, h1, h2, h3, h4, h5, h6, h7, h8, h9, h10, h11, h12, h13, h14, h15, h16, h17, h18⟩ q
    fin_cases q
    exacts [h0, h1, h2, h3, h4, h5, h6, h7, h8, h9, h10, h11, h12, h13, h14, h15, h16, h17, h18]

theorem forall_fin3 (P : Fin 3 → Prop) : (∀ a, P a) ↔ P 0 ∧ P 1 ∧ P 2 := by
  constructor
  · intro h
    exact ⟨h _, h _, h _⟩
  · rintro ⟨h0, h1, h2⟩ a
    fin_cases a
    exacts [h0, h1, h2]

theorem cx_apply : cx 0 = 0 ∧ cx 1 = 0 ∧ cx 2 = 0 ∧ cx 3 = -1 ∧ cx 4 = 1 ∧ cx 5 = 0 ∧ cx 6 = 0
    ∧ cx 7 = -1 ∧ cx 8 = 1 ∧ cx 9 = -1 ∧ cx 10 = 1 ∧ cx 11 = 0 ∧ cx 12 = 0 ∧ cx 13 = -1
    ∧ cx 14 = 1 ∧ cx 15 = 0 ∧ cx 16 = 0 ∧ cx 17 = -1 ∧ cx 18 = 1 := by
  refine ⟨rfl, rfl, rfl, rfl, rfl, rfl, rfl, rfl, rfl, rfl, rfl, rfl, rfl, rfl, rfl, rfl, rfl, rfl,
    rfl⟩

theorem cy_apply : cy 0 = 0 ∧ cy 1 = 1 ∧ cy 2 = -1 ∧ cy 3 = 0 ∧ cy 4 = 0 ∧ cy 5 = 0 ∧ cy 6 = 0
    ∧ cy 7 = 1 ∧ cy 8 = 1 ∧ cy 9 = -1 ∧ cy 10 = -1 ∧ cy 11 = 1 ∧ cy 12 = -1 ∧ cy 13 = 0
    ∧ cy 14 = 0 ∧ cy 15 = 1 ∧ cy 16 = -1 ∧ cy 17 = 0 ∧ cy 18 = 0 := by
  refine ⟨rfl, rfl, rfl, rfl, rfl, rfl, rfl, rfl, rfl, rfl, rfl, rfl, rfl, rfl, rfl, rfl, rfl, rfl,
    rfl⟩

theorem cz_apply : cz 0 = 0 ∧ cz 1 = 0 ∧ cz 2 = 0 ∧ cz 3 = 0 ∧ cz 4 = 0 ∧ cz 5 = 1 ∧ cz 6 = -1
    ∧ cz 7 = 0 ∧ cz 8 = 0 ∧ cz 9 = 0 ∧ cz 10 = 0 ∧ cz 11 = 1 ∧ cz 12 = 1 ∧ cz 13 = 1
    ∧ cz 14 = 1 ∧ cz 15 = -1 ∧ cz 16 = -1 ∧ cz 17 = -1 ∧ cz 18 = -1 := by
  refine ⟨rfl, rfl, rfl, rfl, rfl, rfl, rfl, rfl, rfl, rfl, rfl, rfl, rfl, rfl, rfl, rfl, rfl, rfl,
    rfl⟩

theorem cvec_apply (q : Fin 19) : cvec q 0 = cx q ∧ cvec q 1 = cy q ∧ cvec q 2 = cz q :=
  ⟨rfl, rfl, rfl⟩

theorem w_apply : (FluctuatingMRTLatticeModel.w 0 : K) = 1 / 3
    ∧ (FluctuatingMRTLatticeModel.w 1 : K) = 1 / 18 ∧ (FluctuatingMRTLatticeModel.w 2 : K) = 1 / 18
    ∧ (FluctuatingMRTLatticeModel.w 3 : K) = 1 / 18 ∧ (FluctuatingMRTLatticeModel.w 4 : K) = 1 / 18
    ∧ (FluctuatingMRTLatticeModel.w 5 : K) = 1 / 18 ∧ (FluctuatingMRTLatticeModel.w 6 : K) = 1 / 18
    ∧ (FluctuatingMRTLatticeModel.w 7 : K) = 1 / 36 ∧ (FluctuatingMRTLatticeModel.w 8 : K) = 1 / 36
    ∧ (FluctuatingMRTLatticeModel.w 9 : K) = 1 / 36 ∧ (FluctuatingMRTLatticeModel.w 10 : K) = 1 / 36
    ∧ (FluctuatingMRTLatticeModel.w 11 : K) = 1 / 36 ∧ (FluctuatingMRTLatticeModel.w 12 : K) = 1 / 36
    ∧ (FluctuatingMRTLatticeModel.w 13 : K) = 1 / 36 ∧ (FluctuatingMRTLatticeModel.w 14 : K) = 1 / 36
    ∧ (FluctuatingMRTLatticeModel.w 15 : K) = 1 / 36 ∧ (FluctuatingMRTLatticeModel.w 16 : K) = 1 / 36
    ∧ (FluctuatingMRTLatticeModel.w 17 : K) = 1 / 36 ∧ (FluctuatingMRTLatticeModel.w 18 : K) = 1 / 36 := by
  refine ⟨rfl, rfl, rfl, rfl, rfl, rfl, rfl, rfl, rfl, rfl, rfl, rfl, rfl, rfl, rfl, rfl, rfl, rfl,
    rfl⟩


/-! ## Lane lemmas for the intrinsics -/

theorem mm256_add_pd_apply (a b : Fin 4 → K) (j : Fin 4) : _mm256_add_pd a b j = a j + b j := rfl

theorem mm256_mul_pd_apply (a b : Fin 4 → K) (j : Fin 4) : _mm256_mul_pd a b j = a j * b j := rfl

theorem mm256_div_pd_apply (a b : Fin 4 → K) (j : Fin 4) : _mm256_div_pd a b j = a j / b j := rfl

theorem mm256_sqrt_pd_apply (sqrt : K → K) (a : Fin 4 → K) (j : Fin 4) :
    _mm256_sqrt_pd sqrt a j = sqrt (a j) := rfl

theorem mm256_set_pd_apply (e : K) (j : Fin 4) : _mm256_set_pd e e e e j = e := by
  fin_cases j <;> rfl

theorem mm256_load_pd_apply (row : Int → K) (i : Int) (j : Fin 4) :
    _mm256_load_pd row i j = row (i + ((j : Nat) : Int)) := rfl

theorem mm256_loadu_pd_add (row : Int → K) (i d : Int) (j : Fin 4) :
    _mm256_loadu_pd row (i + d) j = row (i + ((j : Nat) : Int) + d) := by
  show row _ = row _
  congr 1
  omega

theorem mm256_loadu_pd_sub (row : Int → K) (i d : Int) (j : Fin 4) :
    _mm256_loadu_pd row (i - d) j = row (i + ((j : Nat) : Int) - d) := by
  show row _ = row _
  congr 1
  omega

/-- The x counter the vectorised kernels hand to the generator in lane `j` is the scalar
counter of the cell `ctr_0 + j`. -/
theorem lane_counter (block_offset_0 : Nat) (ctr_0 : Int) (j : Fin 4) :
    _mm256_add_epi32
        (_mm256_add_epi32
          (_mm256_set_epi32 block_offset_0 block_offset_0 block_offset_0 block_offset_0
            block_offset_0 block_offset_0 block_offset_0 block_offset_0)
          (_mm256_set_epi32 7 6 5 4 3 2 1 0))
        (_mm256_set_epi32 ctr_0 ctr_0 ctr_0 ctr_0 ctr_0 ctr_0 ctr_0 ctr_0)
        (Fin.castLE (by decide) j)
      = u32 ((block_offset_0 : Int) + (ctr_0 + ((j : Nat) : Int))) := by
  fin_cases j
  · show ((u32 block_offset_0 + u32 0) % 4294967296 + u32 ctr_0) % 4294967296 = u32 _
    simp only [u32, Fin.zero_eta, Fin.val_zero]
    omega
  · show ((u32 block_offset_0 + u32 1) % 4294967296 + u32 ctr_0) % 4294967296 = u32 _
    simp only [u32, Fin.mk_one, Fin.val_one]
    omega
  · show ((u32 block_offset_0 + u32 2) % 4294967296 + u32 ctr_0) % 4294967296 = u32 _
    simp only [u32]
    omega
  · show ((u32 block_offset_0 + u32 3) % 4294967296 + u32 ctr_0) % 4294967296 = u32 _
    simp only [u32]
    omega


/-! ## The collision at one cell -/

namespace FluctuatingMRTLatticeModel.kernel_collide

theorem values_apply (s : Site K) :
    values s 0 = store_0 s ∧ values s 1 = store_1 s ∧ values s 2 = store_2 s ∧ values s 3 =
    store_3 s ∧ values s 4 = store_4 s ∧ values s 5 = store_5 s ∧ values s 6 = store_6 s ∧ values
    s 7 = store_7 s ∧ values s 8 = store_8 s ∧ values s 9 = store_9 s ∧ values s 10 = store_10 s ∧
    values s 11 = store_11 s ∧ values s 12 = store_12 s ∧ values s 13 = store_13 s ∧ values s 14 =
    store_14 s ∧ values s 15 = store_15 s ∧ values s 16 = store_16 s ∧ values s 17 = store_17 s ∧
    values s 18 = store_18 s := by
  refine ⟨rfl, rfl, rfl, rfl, rfl, rfl, rfl, rfl, rfl, rfl, rfl, rfl, rfl, rfl, rfl, rfl, rfl, rfl, rfl⟩

/-- The nineteen values written by the collision sum to the nineteen values read. -/
theorem mass_site [CharZero K] (s : Site K) :
    ∑ q, values s q = ∑ q, s._data_pdfs s.ctr_0 s.ctr_1 s.ctr_2 q := by
  obtain ⟨h0, h1, h2, h3, h4, h5, h6, h7, h8, h9, h10, h11, h12, h13, h14, h15, h16, h17, h18⟩ := values_apply s
  rw [sum19, sum19, h0, h1, h2, h3, h4, h5, h6, h7, h8, h9, h10, h11, h12, h13, h14, h15, h16, h17, h18]
  simp only [
    xi_51, xi_52, xi_53, xi_58, xi_63, xi_78, xi_105, xi_129, xi_144, xi_222, xi_224, rr_0,
    xi_133, xi_197, xi_259, xi_260, xi_261, xi_262, xi_263, xi_264, xi_265, xi_266, xi_267,
    xi_268, xi_269, xi_270, xi_271, xi_272, xi_273, xi_274, xi_275, xi_276, xi_277, xi_278,
    xi_279, xi_280, xi_57, xi_65, xi_69, xi_76, xi_80, xi_90, xi_130, xi_135, xi_145, xi_146,
    xi_151, xi_169, xi_170, xi_173, xi_174, xi_181, xi_184, xi_187, xi_188, xi_195, xi_216,
    xi_218, xi_223, xi_225, xi_234, xi_235, xi_243, xi_249, xi_250, xi_103, xi_104, xi_107,
    xi_137, xi_138, xi_139, xi_147, xi_148, xi_149, xi_150, xi_153, xi_154, xi_158, xi_160,
    xi_164, xi_171, xi_175, xi_176, xi_178, xi_185, xi_189, xi_190, xi_192, xi_193, xi_196,
    xi_206, xi_215, xi_219, xi_220, xi_226, xi_227, xi_228, xi_229, xi_231, xi_236, xi_237,
    xi_241, xi_244, xi_246, xi_251, xi_252, xi_167, xi_202, xi_75, xi_134, xi_198, xi_59, xi_60,
    xi_61, xi_62, xi_64, xi_66, xi_67, xi_68, xi_70, xi_77, xi_79, xi_81, xi_82, xi_83, xi_84,
    xi_85, xi_86, xi_87, xi_89, xi_91, xi_92, xi_93, xi_95, xi_96, xi_97, xi_98, xi_99, xi_100,
    xi_157, xi_161, xi_162, xi_163, xi_177, xi_183, xi_191, xi_194, xi_199, xi_200, xi_201,
    xi_203, xi_204, xi_205, xi_211, xi_212, xi_213, xi_214, xi_230, xi_232, xi_233, xi_238,
    xi_239, xi_242, xi_245, xi_253, xi_255, xi_256, xi_257, xi_258, xi_209, xi_210, xi_248,
    xi_254, xi_221, xi_240, forceTerm_0, forceTerm_1, forceTerm_2, forceTerm_3, forceTerm_4,
    forceTerm_5, forceTerm_6, forceTerm_7, forceTerm_8, forceTerm_9, forceTerm_10, forceTerm_11,
    forceTerm_12, forceTerm_13, forceTerm_14, forceTerm_15, forceTerm_16, forceTerm_17,
    forceTerm_18, store_0, store_1, store_2, store_3, store_4, store_5, store_6, store_7, store_8,
    store_9, store_10, store_11, store_12, store_13, store_14, store_15, store_16, store_17,
    store_18]
  ring

/-- The x momentum written by the collision is the x momentum read plus the force. -/
theorem momentum_site_x [CharZero K] (s : Site K) :
    ∑ q, (cx q : K) * values s q
      = ∑ q, (cx q : K) * s._data_pdfs s.ctr_0 s.ctr_1 s.ctr_2 q
        + s._data_force s.ctr_0 s.ctr_1 s.ctr_2 0 := by
  obtain ⟨h0, h1, h2, h3, h4, h5, h6, h7, h8, h9, h10, h11, h12, h13, h14, h15, h16, h17, h18⟩ := values_apply s
  obtain ⟨c0, c1, c2, c3, c4, c5, c6, c7, c8, c9, c10, c11, c12, c13, c14, c15, c16, c17, c18⟩ := cx_apply
  rw [sum19, sum19, h0, h1, h2, h3, h4, h5, h6, h7, h8, h9, h10, h11, h12, h13, h14, h15, h16, h17, h18,
    c0, c1, c2, c3, c4, c5, c6, c7, c8, c9, c10, c11, c12, c13, c14, c15, c16, c17, c18]
  simp only [Int.cast_zero, Int.cast_one, Int.cast_neg, zero_mul, one_mul, neg_mul, add_zero,
    zero_add]
  simp only [
    xi_51, xi_52, xi_53, xi_58, xi_63, xi_78, xi_105, xi_129, xi_144, xi_222, xi_224, rr_0,
    xi_133, xi_197, xi_259, xi_260, xi_261, xi_262, xi_263, xi_264, xi_265, xi_266, xi_267,
    xi_268, xi_269, xi_270, xi_271, xi_272, xi_273, xi_274, xi_275, xi_276, xi_277, xi_278,
    xi_279, xi_280, xi_57, xi_65, xi_69, xi_76, xi_80, xi_90, xi_130, xi_135, xi_145, xi_146,
    xi_151, xi_169, xi_170, xi_173, xi_174, xi_181, xi_184, xi_187, xi_188, xi_195, xi_216,
    xi_218, xi_223, xi_225, xi_234, xi_235, xi_243, xi_249, xi_250, xi_103, xi_104, xi_107,
    xi_137, xi_138, xi_139, xi_147, xi_148, xi_149, xi_150, xi_153, xi_154, xi_158, xi_160,
    xi_164, xi_171, xi_175, xi_176, xi_178, xi_185, xi_189, xi_190, xi_192, xi_193, xi_196,
    xi_206, xi_215, xi_219, xi_220, xi_226, xi_227, xi_228, xi_229, xi_231, xi_236, xi_237,
    xi_241, xi_244, xi_246, xi_251, xi_252, xi_167, xi_202, xi_75, xi_134, xi_198, xi_59, xi_60,
    xi_61, xi_62, xi_64, xi_66, xi_67, xi_68, xi_70, xi_77, xi_79, xi_81, xi_82, xi_83, xi_84,
    xi_85, xi_86, xi_87, xi_89, xi_91, xi_92, xi_93, xi_95, xi_96, xi_97, xi_98, xi_99, xi_100,
    xi_157, xi_161, xi_162, xi_163, xi_177, xi_183, xi_191, xi_194, xi_199, xi_200, xi_201,
    xi_203, xi_204, xi_205, xi_211, xi_212, xi_213, xi_214, xi_230, xi_232, xi_233, xi_238,
    xi_239, xi_242, xi_245, xi_253, xi_255, xi_256, xi_257, xi_258, xi_209, xi_210, xi_248,
    xi_254, xi_221, xi_240, forceTerm_0, forceTerm_1, forceTerm_2, forceTerm_3, forceTerm_4,
    forceTerm_5, forceTerm_6, forceTerm_7, forceTerm_8, forceTerm_9, forceTerm_10, forceTerm_11,
    forceTerm_12, forceTerm_13, forceTerm_14, forceTerm_15, forceTerm_16, forceTerm_17,
    forceTerm_18, store_0, store_1, store_2, store_3, store_4, store_5, store_6, store_7, store_8,
    store_9, store_10, store_11, store_12, store_13, store_14, store_15, store_16, store_17,
    store_18]
  ring

/-- The y momentum written by the collision is the y momentum read plus the force. -/
theorem momentum_site_y [CharZero K] (s : Site K) :
    ∑ q, (cy q : K) * values s q
      = ∑ q, (cy q : K) * s._data_pdfs s.ctr_0 s.ctr_1 s.ctr_2 q
        + s._data_force s.ctr_0 s.ctr_1 s.ctr_2 1 := by
  obtain ⟨h0, h1, h2, h3, h4, h5, h6, h7, h8, h9, h10, h11, h12, h13, h14, h15, h16, h17, h18⟩ := values_apply s
  obtain ⟨c0, c1, c2, c3, c4, c5, c6, c7, c8, c9, c10, c11, c12, c13, c14, c15, c16, c17, c18⟩ := cy_apply
  rw [sum19, sum19, h0, h1, h2, h3, h4, h5, h6, h7, h8, h9, h10, h11, h12, h13, h14, h15, h16, h17, h18,
    c0, c1, c2, c3, c4, c5, c6, c7, c8, c9, c10, c11, c12, c13, c14, c15, c16, c17, c18]
  simp only [Int.cast_zero, Int.cast_one, Int.cast_neg, zero_mul, one_mul, neg_mul, add_zero,
    zero_add]
  simp only [
    xi_51, xi_52, xi_53, xi_58, xi_63, xi_78, xi_105, xi_129, xi_144, xi_222, xi_224, rr_0,
    xi_133, xi_197, xi_259, xi_260, xi_261, xi_262, xi_263, xi_264, xi_265, xi_266, xi_267,
    xi_268, xi_269, xi_270, xi_271, xi_272, xi_273, xi_274, xi_275, xi_276, xi_277, xi_278,
    xi_279, xi_280, xi_57, xi_65, xi_69, xi_76, xi_80, xi_90, xi_130, xi_135, xi_145, xi_146,
    xi_151, xi_169, xi_170, xi_173, xi_174, xi_181, xi_184, xi_187, xi_188, xi_195, xi_216,
    xi_218, xi_223, xi_225, xi_234, xi_235, xi_243, xi_249, xi_250, xi_103, xi_104, xi_107,
    xi_137, xi_138, xi_139, xi_147, xi_148, xi_149, xi_150, xi_153, xi_154, xi_158, xi_160,
    xi_164, xi_171, xi_175, xi_176, xi_178, xi_185, xi_189, xi_190, xi_192, xi_193, xi_196,
    xi_206, xi_215, xi_219, xi_220, xi_226, xi_227, xi_228, xi_229, xi_231, xi_236, xi_237,
    xi_241, xi_244, xi_246, xi_251, xi_252, xi_167, xi_202, xi_75, xi_134, xi_198, xi_59, xi_60,
    xi_61, xi_62, xi_64, xi_66, xi_67, xi_68, xi_70, xi_77, xi_79, xi_81, xi_82, xi_83, xi_84,
    xi_85, xi_86, xi_87, xi_89, xi_91, xi_92, xi_93, xi_95, xi_96, xi_97, xi_98, xi_99, xi_100,
    xi_157, xi_161, xi_162, xi_163, xi_177, xi_183, xi_191, xi_194, xi_199, xi_200, xi_201,
    xi_203, xi_204, xi_205, xi_211, xi_212, xi_213, xi_214, xi_230, xi_232, xi_233, xi_238,
    xi_239, xi_242, xi_245, xi_253, xi_255, xi_256, xi_257, xi_258, xi_209, xi_210, xi_248,
    xi_254, xi_221, xi_240, forceTerm_0, forceTerm_1, forceTerm_2, forceTerm_3, forceTerm_4,
    forceTerm_5, forceTerm_6, forceTerm_7, forceTerm_8, forceTerm_9, forceTerm_10, forceTerm_11,
    forceTerm_12, forceTerm_13, forceTerm_14, forceTerm_15, forceTerm_16, forceTerm_17,
    forceTerm_18, store_0, store_1, store_2, store_3, store_4, store_5, store_6, store_7, store_8,
    store_9, store_10, store_11, store_12, store_13, store_14, store_15, store_16, store_17,
    store_18]
  ring

/-- The z momentum written by the collision is the z momentum read plus the force. -/
theorem momentum_site_z [CharZero K] (s : Site K) :
    ∑ q, (cz q : K) * values s q
      = ∑ q, (cz q : K) * s._data_pdfs s.ctr_0 s.ctr_1 s.ctr_2 q
        + s._data_force s.ctr_0 s.ctr_1 s.ctr_2 2 := by
  obtain ⟨h0, h1, h2, h3, h4, h5, h6, h7, h8, h9, h10, h11, h12, h13, h14, h15, h16, h17, h18⟩ := values_apply s
  obtain ⟨c0, c1, c2, c3, c4, c5, c6, c7, c8, c9, c10, c11, c12, c13, c14, c15, c16, c17, c18⟩ := cz_apply
  rw [sum19, sum19, h0, h1, h2, h3, h4, h5, h6, h7, h8, h9, h10, h11, h12, h13, h14, h15, h16, h17, h18,
    c0, c1, c2, c3, c4, c5, c6, c7, c8, c9, c10, c11, c12, c13, c14, c15, c16, c17, c18]
  simp only [Int.cast_zero, Int.cast_one, Int.cast_neg, zero_mul, one_mul, neg_mul, add_zero,
    zero_add]
  simp only [
    xi_51, xi_52, xi_53, xi_58, xi_63, xi_78, xi_105, xi_129, xi_144, xi_222, xi_224, rr_0,
    xi_133, xi_197, xi_259, xi_260, xi_261, xi_262, xi_263, xi_264, xi_265, xi_266, xi_267,
    xi_268, xi_269, xi_270, xi_271, xi_272, xi_273, xi_274, xi_275, xi_276, xi_277, xi_278,
    xi_279, xi_280, xi_57, xi_65, xi_69, xi_76, xi_80, xi_90, xi_130, xi_135, xi_145, xi_146,
    xi_151, xi_169, xi_170, xi_173, xi_174, xi_181, xi_184, xi_187, xi_188, xi_195, xi_216,
    xi_218, xi_223, xi_225, xi_234, xi_235, xi_243, xi_249, xi_250, xi_103, xi_104, xi_107,
    xi_137, xi_138, xi_139, xi_147, xi_148, xi_149, xi_150, xi_153, xi_154, xi_158, xi_160,
    xi_164, xi_171, xi_175, xi_176, xi_178, xi_185, xi_189, xi_190, xi_192, xi_193, xi_196,
    xi_206, xi_215, xi_219, xi_220, xi_226, xi_227, xi_228, xi_229, xi_231, xi_236, xi_237,
    xi_241, xi_244, xi_246, xi_251, xi_252, xi_167, xi_202, xi_75, xi_134, xi_198, xi_59, xi_60,
    xi_61, xi_62, xi_64, xi_66, xi_67, xi_68, xi_70, xi_77, xi_79, xi_81, xi_82, xi_83, xi_84,
    xi_85, xi_86, xi_87, xi_89, xi_91, xi_92, xi_93, xi_95, xi_96, xi_97, xi_98, xi_99, xi_100,
    xi_157, xi_161, xi_162, xi_163, xi_177, xi_183, xi_191, xi_194, xi_199, xi_200, xi_201,
    xi_203, xi_204, xi_205, xi_211, xi_212, xi_213, xi_214, xi_230, xi_232, xi_233, xi_238,
    xi_239, xi_242, xi_245, xi_253, xi_255, xi_256, xi_257, xi_258, xi_209, xi_210, xi_248,
    xi_254, xi_221, xi_240, forceTerm_0, forceTerm_1, forceTerm_2, forceTerm_3, forceTerm_4,
    forceTerm_5, forceTerm_6, forceTerm_7, forceTerm_8, forceTerm_9, forceTerm_10, forceTerm_11,
    forceTerm_12, forceTerm_13, forceTerm_14, forceTerm_15, forceTerm_16, forceTerm_17,
    forceTerm_18, store_0, store_1, store_2, store_3, store_4, store_5, store_6, store_7, store_8,
    store_9, store_10, store_11, store_12, store_13, store_14, store_15, store_16, store_17,
    store_18]
  ring

/-- With `kT = 0` (and `sqrt 0 = 0`) every amplitude and every noise term of the loop body
vanishes. -/
theorem noise_zero (s : Site K) (hkT : s.kT = 0) (hsqrt : s.sqrt 0 = 0) :
    xi_101 s = 0 ∧ xi_102 s = 0 ∧ xi_103 s = 0 ∧ xi_104 s = 0 ∧ xi_106 s = 0 ∧ xi_107 s = 0 ∧
    xi_136 s = 0 ∧ xi_137 s = 0 ∧ xi_138 s = 0 ∧ xi_139 s = 0 ∧ xi_147 s = 0 ∧ xi_148 s = 0 ∧
    xi_149 s = 0 ∧ xi_152 s = 0 ∧ xi_153 s = 0 ∧ xi_154 s = 0 ∧ xi_160 s = 0 ∧ xi_171 s = 0 ∧
    xi_175 s = 0 ∧ xi_185 s = 0 ∧ xi_189 s = 0 ∧ xi_193 s = 0 ∧ xi_196 s = 0 ∧ xi_206 s = 0 ∧
    xi_215 s = 0 ∧ xi_219 s = 0 ∧ xi_220 s = 0 ∧ xi_226 s = 0 ∧ xi_227 s = 0 ∧ xi_228 s = 0 ∧
    xi_229 s = 0 ∧ xi_236 s = 0 ∧ xi_237 s = 0 ∧ xi_241 s = 0 ∧ xi_244 s = 0 ∧ xi_246 s = 0 ∧
    xi_251 s = 0 ∧ xi_252 s = 0 := by
  have z_xi_101 : xi_101 s = 0 := by
    simp only [xi_101, hkT, hsqrt, zero_mul, mul_zero, neg_zero, add_zero, zero_add, sub_zero, sub_self]
  have z_xi_102 : xi_102 s = 0 := by
    simp only [xi_102, z_xi_101, hkT, hsqrt, zero_mul, mul_zero, neg_zero, add_zero, zero_add, sub_zero, sub_self]
  have z_xi_103 : xi_103 s = 0 := by
    simp only [xi_103, z_xi_102, hkT, hsqrt, zero_mul, mul_zero, neg_zero, add_zero, zero_add, sub_zero, sub_self]
  have z_xi_104 : xi_104 s = 0 := by
    simp only [xi_104, z_xi_102, hkT, hsqrt, zero_mul, mul_zero, neg_zero, add_zero, zero_add, sub_zero, sub_self]
  have z_xi_106 : xi_106 s = 0 := by
    simp only [xi_106, z_xi_101, hkT, hsqrt, zero_mul, mul_zero, neg_zero, add_zero, zero_add, sub_zero, sub_self]
  have z_xi_107 : xi_107 s = 0 := by
    simp only [xi_107, z_xi_102, hkT, hsqrt, zero_mul, mul_zero, neg_zero, add_zero, zero_add, sub_zero, sub_self]
  have z_xi_136 : xi_136 s = 0 := by
    simp only [xi_136, z_xi_101, hkT, hsqrt, zero_mul, mul_zero, neg_zero, add_zero, zero_add, sub_zero, sub_self]
  have z_xi_137 : xi_137 s = 0 := by
    simp only [xi_137, z_xi_136, hkT, hsqrt, zero_mul, mul_zero, neg_zero, add_zero, zero_add, sub_zero, sub_self]
  have z_xi_138 : xi_138 s = 0 := by
    simp only [xi_138, z_xi_137, hkT, hsqrt, zero_mul, mul_zero, neg_zero, add_zero, zero_add, sub_zero, sub_self]
  have z_xi_139 : xi_139 s = 0 := by
    simp only [xi_139, z_xi_138, hkT, hsqrt, zero_mul, mul_zero, neg_zero, add_zero, zero_add, sub_zero, sub_self]
  have z_xi_147 : xi_147 s = 0 := by
    simp only [xi_147, z_xi_136, hkT, hsqrt, zero_mul, mul_zero, neg_zero, add_zero, zero_add, sub_zero, sub_self]
  have z_xi_148 : xi_148 s = 0 := by
    simp only [xi_148, z_xi_147, hkT, hsqrt, zero_mul, mul_zero, neg_zero, add_zero, zero_add, sub_zero, sub_self]
  have z_xi_149 : xi_149 s = 0 := by
    simp only [xi_149, z_xi_148, hkT, hsqrt, zero_mul, mul_zero, neg_zero, add_zero, zero_add, sub_zero, sub_self]
  have z_xi_152 : xi_152 s = 0 := by
    simp only [xi_152, z_xi_101, hkT, hsqrt, zero_mul, mul_zero, neg_zero, add_zero, zero_add, sub_zero, sub_self]
  have z_xi_153 : xi_153 s = 0 := by
    simp only [xi_153, z_xi_152, hkT, hsqrt, zero_mul, mul_zero, neg_zero, add_zero, zero_add, sub_zero, sub_self]
  have z_xi_154 : xi_154 s = 0 := by
    simp only [xi_154, z_xi_153, hkT, hsqrt, zero_mul, mul_zero, neg_zero, add_zero, zero_add, sub_zero, sub_self]
  have z_xi_160 : xi_160 s = 0 := by
    simp only [xi_160, z_xi_152, hkT, hsqrt, zero_mul, mul_zero, neg_zero, add_zero, zero_add, sub_zero, sub_self]
  have z_xi_171 : xi_171 s = 0 := by
    simp only [xi_171, z_xi_138, hkT, hsqrt, zero_mul, mul_zero, neg_zero, add_zero, zero_add, sub_zero, sub_self]
  have z_xi_175 : xi_175 s = 0 := by
    simp only [xi_175, z_xi_148, hkT, hsqrt, zero_mul, mul_zero, neg_zero, add_zero, zero_add, sub_zero, sub_self]
  have z_xi_185 : xi_185 s = 0 := by
    simp only [xi_185, z_xi_138, hkT, hsqrt, zero_mul, mul_zero, neg_zero, add_zero, zero_add, sub_zero, sub_self]
  have z_xi_189 : xi_189 s = 0 := by
    simp only [xi_189, z_xi_148, hkT, hsqrt, zero_mul, mul_zero, neg_zero, add_zero, zero_add, sub_zero, sub_self]
  have z_xi_193 : xi_193 s = 0 := by
    simp only [xi_193, z_xi_152, hkT, hsqrt, zero_mul, mul_zero, neg_zero, add_zero, zero_add, sub_zero, sub_self]
  have z_xi_196 : xi_196 s = 0 := by
    simp only [xi_196, z_xi_103, hkT, hsqrt, zero_mul, mul_zero, neg_zero, add_zero, zero_add, sub_zero, sub_self]
  have z_xi_206 : xi_206 s = 0 := by
    simp only [xi_206, z_xi_153, hkT, hsqrt, zero_mul, mul_zero, neg_zero, add_zero, zero_add, sub_zero, sub_self]
  have z_xi_215 : xi_215 s = 0 := by
    simp only [xi_215, z_xi_153, hkT, hsqrt, zero_mul, mul_zero, neg_zero, add_zero, zero_add, sub_zero, sub_self]
  have z_xi_219 : xi_219 s = 0 := by
    simp only [xi_219, z_xi_107, hkT, hsqrt, zero_mul, mul_zero, neg_zero, add_zero, zero_add, sub_zero, sub_self]
  have z_xi_220 : xi_220 s = 0 := by
    simp only [xi_220, z_xi_104, hkT, hsqrt, zero_mul, mul_zero, neg_zero, add_zero, zero_add, sub_zero, sub_self]
  have z_xi_226 : xi_226 s = 0 := by
    simp only [xi_226, z_xi_147, hkT, hsqrt, zero_mul, mul_zero, neg_zero, add_zero, zero_add, sub_zero, sub_self]
  have z_xi_227 : xi_227 s = 0 := by
    simp only [xi_227, z_xi_226, hkT, hsqrt, zero_mul, mul_zero, neg_zero, add_zero, zero_add, sub_zero, sub_self]
  have z_xi_228 : xi_228 s = 0 := by
    simp only [xi_228, z_xi_137, hkT, hsqrt, zero_mul, mul_zero, neg_zero, add_zero, zero_add, sub_zero, sub_self]
  have z_xi_229 : xi_229 s = 0 := by
    simp only [xi_229, z_xi_228, hkT, hsqrt, zero_mul, mul_zero, neg_zero, add_zero, zero_add, sub_zero, sub_self]
  have z_xi_236 : xi_236 s = 0 := by
    simp only [xi_236, z_xi_226, hkT, hsqrt, zero_mul, mul_zero, neg_zero, add_zero, zero_add, sub_zero, sub_self]
  have z_xi_237 : xi_237 s = 0 := by
    simp only [xi_237, z_xi_228, hkT, hsqrt, zero_mul, mul_zero, neg_zero, add_zero, zero_add, sub_zero, sub_self]
  have z_xi_241 : xi_241 s = 0 := by
    simp only [xi_241, z_xi_193, hkT, hsqrt, zero_mul, mul_zero, neg_zero, add_zero, zero_add, sub_zero, sub_self]
  have z_xi_244 : xi_244 s = 0 := by
    simp only [xi_244, z_xi_107, hkT, hsqrt, zero_mul, mul_zero, neg_zero, add_zero, zero_add, sub_zero, sub_self]
  have z_xi_246 : xi_246 s = 0 := by
    simp only [xi_246, z_xi_153, hkT, hsqrt, zero_mul, mul_zero, neg_zero, add_zero, zero_add, sub_zero, sub_self]
  have z_xi_251 : xi_251 s = 0 := by
    simp only [xi_251, z_xi_228, hkT, hsqrt, zero_mul, mul_zero, neg_zero, add_zero, zero_add, sub_zero, sub_self]
  have z_xi_252 : xi_252 s = 0 := by
    simp only [xi_252, z_xi_226, hkT, hsqrt, zero_mul, mul_zero, neg_zero, add_zero, zero_add, sub_zero, sub_self]
  exact ⟨z_xi_101, z_xi_102, z_xi_103, z_xi_104, z_xi_106, z_xi_107, z_xi_136, z_xi_137, z_xi_138, z_xi_139, z_xi_147, z_xi_148, z_xi_149, z_xi_152, z_xi_153, z_xi_154, z_xi_160, z_xi_171, z_xi_175, z_xi_185, z_xi_189, z_xi_193, z_xi_196, z_xi_206, z_xi_215, z_xi_219, z_xi_220, z_xi_226, z_xi_227, z_xi_228, z_xi_229, z_xi_236, z_xi_237, z_xi_241, z_xi_244, z_xi_246, z_xi_251, z_xi_252⟩

/-- With `kT = 0` the values written depend only on the populations and the force read at the
cell and on the relaxation rates: not on the generator, the seed, the time step, the block
offsets or the loop counters. -/
theorem values_eq_of_kT_zero (s s' : Site K) (hkT : s.kT = 0) (hkT' : s'.kT = 0)
    (hsqrt : s.sqrt 0 = 0)
    (h_sqrt : s.sqrt = s'.sqrt) (h_bulk : s.omega_bulk = s'.omega_bulk) (h_even : s.omega_even =
    s'.omega_even) (h_odd : s.omega_odd = s'.omega_odd) (h_shear : s.omega_shear =
    s'.omega_shear)
    (h_pdfs : ∀ q, s._data_pdfs s.ctr_0 s.ctr_1 s.ctr_2 q = s'._data_pdfs s'.ctr_0 s'.ctr_1 s'.ctr_2 q)
    (h_force : ∀ a, s._data_force s.ctr_0 s.ctr_1 s.ctr_2 a
      = s'._data_force s'.ctr_0 s'.ctr_1 s'.ctr_2 a) :
    values s = values s' := by
  have hsqrt' : s'.sqrt 0 = 0 := h_sqrt ▸ hsqrt
  obtain ⟨z_xi_101, z_xi_102, z_xi_103, z_xi_104, z_xi_106, z_xi_107, z_xi_136, z_xi_137, z_xi_138,
      z_xi_139, z_xi_147, z_xi_148, z_xi_149, z_xi_152, z_xi_153, z_xi_154, z_xi_160, z_xi_171,
      z_xi_175, z_xi_185, z_xi_189, z_xi_193, z_xi_196, z_xi_206, z_xi_215, z_xi_219, z_xi_220,
      z_xi_226, z_xi_227, z_xi_228, z_xi_229, z_xi_236, z_xi_237, z_xi_241, z_xi_244, z_xi_246,
      z_xi_251, z_xi_252⟩ :=
    noise_zero s hkT hsqrt
  obtain ⟨y_xi_101, y_xi_102, y_xi_103, y_xi_104, y_xi_106, y_xi_107, y_xi_136, y_xi_137, y_xi_138,
      y_xi_139, y_xi_147, y_xi_148, y_xi_149, y_xi_152, y_xi_153, y_xi_154, y_xi_160, y_xi_171,
      y_xi_175, y_xi_185, y_xi_189, y_xi_193, y_xi_196, y_xi_206, y_xi_215, y_xi_219, y_xi_220,
      y_xi_226, y_xi_227, y_xi_228, y_xi_229, y_xi_236, y_xi_237, y_xi_241, y_xi_244, y_xi_246,
      y_xi_251, y_xi_252⟩ :=
    noise_zero s' hkT' hsqrt'
  have r_xi_259 : xi_259 s = xi_259 s' := h_pdfs 8
  have r_xi_260 : xi_260 s = xi_260 s' := h_pdfs 1
  have r_xi_261 : xi_261 s = xi_261 s' := h_pdfs 5
  have r_xi_262 : xi_262 s = xi_262 s' := h_pdfs 18
  have r_xi_263 : xi_263 s = xi_263 s' := h_pdfs 0
  have r_xi_264 : xi_264 s = xi_264 s' := h_pdfs 11
  have r_xi_265 : xi_265 s = xi_265 s' := h_pdfs 10
  have r_xi_266 : xi_266 s = xi_266 s' := h_pdfs 4
  have r_xi_267 : xi_267 s = xi_267 s' := h_pdfs 6
  have r_xi_268 : xi_268 s = xi_268 s' := h_pdfs 3
  have r_xi_269 : xi_269 s = xi_269 s' := h_pdfs 7
  have r_xi_270 : xi_270 s = xi_270 s' := h_pdfs 15
  have r_xi_271 : xi_271 s = xi_271 s' := h_force 1
  have r_xi_272 : xi_272 s = xi_272 s' := h_pdfs 14
  have r_xi_273 : xi_273 s = xi_273 s' := h_force 2
  have r_xi_274 : xi_274 s = xi_274 s' := h_pdfs 9
  have r_xi_275 : xi_275 s = xi_275 s' := h_pdfs 13
  have r_xi_276 : xi_276 s = xi_276 s' := h_pdfs 17
  have r_xi_277 : xi_277 s = xi_277 s' := h_force 0
  have r_xi_278 : xi_278 s = xi_278 s' := h_pdfs 2
  have r_xi_279 : xi_279 s = xi_279 s' := h_pdfs 12
  have r_xi_280 : xi_280 s = xi_280 s' := h_pdfs 16
  simp only [values,
    xi_40, xi_51, xi_52, xi_53, xi_58, xi_63, xi_73, xi_78, xi_129, xi_144, xi_207, xi_222,
    xi_224, rr_0, xi_133, xi_197, xi_0, xi_1, xi_2, xi_3, xi_4, xi_5, xi_6, xi_7, xi_8, xi_9,
    xi_10, xi_12, xi_13, xi_14, xi_15, xi_16, xi_17, xi_18, xi_19, xi_20, xi_21, xi_22, xi_23,
    xi_24, xi_25, xi_26, xi_27, xi_28, xi_29, xi_30, xi_31, xi_32, xi_33, xi_34, xi_35, xi_36,
    xi_37, xi_38, xi_39, xi_57, xi_65, xi_69, xi_72, xi_76, xi_80, xi_90, xi_108, xi_109, xi_110,
    xi_111, xi_112, xi_113, xi_116, xi_117, xi_118, xi_121, xi_122, xi_124, xi_125, xi_126,
    xi_127, xi_128, xi_130, xi_140, xi_141, xi_142, xi_143, xi_145, xi_168, xi_169, xi_172,
    xi_173, xi_179, xi_180, xi_181, xi_186, xi_187, xi_195, xi_216, xi_218, xi_223, xi_225,
    xi_234, xi_235, xi_243, xi_249, xi_250, vel0Term, vel1Term, vel2Term, rho, xi_11, xi_150,
    xi_158, xi_164, xi_176, xi_178, xi_190, xi_192, xi_231, u_0, xi_41, xi_42, xi_48, xi_114,
    xi_165, xi_166, xi_167, xi_202, u_1, xi_43, xi_44, xi_49, xi_71, xi_74, xi_75, xi_119, xi_120,
    xi_131, xi_132, xi_134, xi_198, u_2, xi_45, xi_46, xi_47, xi_50, xi_54, xi_55, xi_56, xi_59,
    xi_60, xi_61, xi_62, xi_64, xi_66, xi_67, xi_68, xi_70, xi_77, xi_79, xi_81, xi_82, xi_83,
    xi_84, xi_85, xi_86, xi_87, xi_88, xi_89, xi_91, xi_92, xi_93, xi_94, xi_95, xi_96, xi_97,
    xi_98, xi_99, xi_100, xi_115, xi_123, xi_155, xi_156, xi_157, xi_159, xi_161, xi_162, xi_163,
    xi_177, xi_182, xi_183, xi_191, xi_194, xi_199, xi_200, xi_201, xi_203, xi_204, xi_205,
    xi_211, xi_212, xi_213, xi_214, xi_230, xi_232, xi_233, xi_238, xi_239, xi_242, xi_245,
    xi_253, xi_255, xi_256, xi_257, xi_258, p_1, xi_208, xi_209, xi_210, p_2, xi_247, xi_248,
    xi_254, p_5, xi_217, xi_221, xi_240, forceTerm_0, forceTerm_1, forceTerm_2, forceTerm_3,
    forceTerm_4, forceTerm_5, forceTerm_6, forceTerm_7, forceTerm_8, forceTerm_9, forceTerm_10,
    forceTerm_11, forceTerm_12, forceTerm_13, forceTerm_14, forceTerm_15, forceTerm_16,
    forceTerm_17, forceTerm_18, store_0, store_1, store_2, store_3, store_4, store_5, store_6,
    store_7, store_8, store_9, store_10, store_11, store_12, store_13, store_14, store_15,
    store_16, store_17, store_18,
    z_xi_101, z_xi_102, z_xi_103, z_xi_104, z_xi_106, z_xi_107, z_xi_136, z_xi_137, z_xi_138,
    z_xi_139, z_xi_147, z_xi_148, z_xi_149, z_xi_152, z_xi_153, z_xi_154, z_xi_160, z_xi_171,
    z_xi_175, z_xi_185, z_xi_189, z_xi_193, z_xi_196, z_xi_206, z_xi_215, z_xi_219, z_xi_220,
    z_xi_226, z_xi_227, z_xi_228, z_xi_229, z_xi_236, z_xi_237, z_xi_241, z_xi_244, z_xi_246,
    z_xi_251, z_xi_252,
    y_xi_101, y_xi_102, y_xi_103, y_xi_104, y_xi_106, y_xi_107, y_xi_136, y_xi_137, y_xi_138,
    y_xi_139, y_xi_147, y_xi_148, y_xi_149, y_xi_152, y_xi_153, y_xi_154, y_xi_160, y_xi_171,
    y_xi_175, y_xi_185, y_xi_189, y_xi_193, y_xi_196, y_xi_206, y_xi_215, y_xi_219, y_xi_220,
    y_xi_226, y_xi_227, y_xi_228, y_xi_229, y_xi_236, y_xi_237, y_xi_241, y_xi_244, y_xi_246,
    y_xi_251, y_xi_252,
    r_xi_259, r_xi_260, r_xi_261, r_xi_262, r_xi_263, r_xi_264, r_xi_265, r_xi_266, r_xi_267,
    r_xi_268, r_xi_269, r_xi_270, r_xi_271, r_xi_272, r_xi_273, r_xi_274, r_xi_275, r_xi_276,
    r_xi_277, r_xi_278, r_xi_279, r_xi_280,
    h_sqrt, h_bulk, h_even, h_odd, h_shear]

/-- The values written depend only on the populations and the force read at the cell, on the
parameters and on the eight pairs of random draws. -/
theorem values_eq_of_reads (s s' : Site K)
    (h_sqrt : s.sqrt = s'.sqrt) (h_kT : s.kT = s'.kT) (h_bulk : s.omega_bulk = s'.omega_bulk)
    (h_even : s.omega_even = s'.omega_even) (h_odd : s.omega_odd = s'.omega_odd) (h_shear :
    s.omega_shear = s'.omega_shear)
    (h_pdfs : ∀ q, s._data_pdfs s.ctr_0 s.ctr_1 s.ctr_2 q = s'._data_pdfs s'.ctr_0 s'.ctr_1 s'.ctr_2 q)
    (h_force : ∀ a, s._data_force s.ctr_0 s.ctr_1 s.ctr_2 a
      = s'._data_force s'.ctr_0 s'.ctr_1 s'.ctr_2 a)
    (h_r0 : random_0 s = random_0 s') (h_r1 : random_1 s = random_1 s') (h_r2 : random_2 s =
    random_2 s') (h_r3 : random_3 s = random_3 s') (h_r4 : random_4 s = random_4 s') (h_r5 :
    random_5 s = random_5 s') (h_r6 : random_6 s = random_6 s') (h_r7 : random_7 s = random_7
    s') :
    values s = values s' := by
  have r_xi_259 : xi_259 s = xi_259 s' := h_pdfs 8
  have r_xi_260 : xi_260 s = xi_260 s' := h_pdfs 1
  have r_xi_261 : xi_261 s = xi_261 s' := h_pdfs 5
  have r_xi_262 : xi_262 s = xi_262 s' := h_pdfs 18
  have r_xi_263 : xi_263 s = xi_263 s' := h_pdfs 0
  have r_xi_264 : xi_264 s = xi_264 s' := h_pdfs 11
  have r_xi_265 : xi_265 s = xi_265 s' := h_pdfs 10
  have r_xi_266 : xi_266 s = xi_266 s' := h_pdfs 4
  have r_xi_267 : xi_267 s = xi_267 s' := h_pdfs 6
  have r_xi_268 : xi_268 s = xi_268 s' := h_pdfs 3
  have r_xi_269 : xi_269 s = xi_269 s' := h_pdfs 7
  have r_xi_270 : xi_270 s = xi_270 s' := h_pdfs 15
  have r_xi_271 : xi_271 s = xi_271 s' := h_force 1
  have r_xi_272 : xi_272 s = xi_272 s' := h_pdfs 14
  have r_xi_273 : xi_273 s = xi_273 s' := h_force 2
  have r_xi_274 : xi_274 s = xi_274 s' := h_pdfs 9
  have r_xi_275 : xi_275 s = xi_275 s' := h_pdfs 13
  have r_xi_276 : xi_276 s = xi_276 s' := h_pdfs 17
  have r_xi_277 : xi_277 s = xi_277 s' := h_force 0
  have r_xi_278 : xi_278 s = xi_278 s' := h_pdfs 2
  have r_xi_279 : xi_279 s = xi_279 s' := h_pdfs 12
  have r_xi_280 : xi_280 s = xi_280 s' := h_pdfs 16
  simp only [values,
    xi_40, xi_51, xi_52, xi_53, xi_58, xi_63, xi_73, xi_78, xi_105, xi_129, xi_144, xi_207,
    xi_222, xi_224, rr_0, xi_133, xi_197, random_7_0, random_6_0, random_6_1, random_5_0,
    random_5_1, random_4_0, random_4_1, random_3_0, random_3_1, random_2_0, random_2_1,
    random_1_0, random_1_1, random_0_0, random_0_1, xi_0, xi_1, xi_2, xi_3, xi_4, xi_5, xi_6,
    xi_7, xi_8, xi_9, xi_10, xi_12, xi_13, xi_14, xi_15, xi_16, xi_17, xi_18, xi_19, xi_20, xi_21,
    xi_22, xi_23, xi_24, xi_25, xi_26, xi_27, xi_28, xi_29, xi_30, xi_31, xi_32, xi_33, xi_34,
    xi_35, xi_36, xi_37, xi_38, xi_39, xi_57, xi_65, xi_69, xi_72, xi_76, xi_80, xi_90, xi_108,
    xi_109, xi_110, xi_111, xi_112, xi_113, xi_116, xi_117, xi_118, xi_121, xi_122, xi_124,
    xi_125, xi_126, xi_127, xi_128, xi_130, xi_135, xi_140, xi_141, xi_142, xi_143, xi_145,
    xi_146, xi_151, xi_168, xi_169, xi_170, xi_172, xi_173, xi_174, xi_179, xi_180, xi_181,
    xi_184, xi_186, xi_187, xi_188, xi_195, xi_216, xi_218, xi_223, xi_225, xi_234, xi_235,
    xi_243, xi_249, xi_250, vel0Term, vel1Term, vel2Term, rho, xi_11, xi_101, xi_102, xi_103,
    xi_104, xi_106, xi_107, xi_136, xi_137, xi_138, xi_139, xi_147, xi_148, xi_149, xi_150,
    xi_152, xi_153, xi_154, xi_158, xi_160, xi_164, xi_171, xi_175, xi_176, xi_178, xi_185,
    xi_189, xi_190, xi_192, xi_193, xi_196, xi_206, xi_215, xi_219, xi_220, xi_226, xi_227,
    xi_228, xi_229, xi_231, xi_236, xi_237, xi_241, xi_244, xi_246, xi_251, xi_252, u_0, xi_41,
    xi_42, xi_48, xi_114, xi_165, xi_166, xi_167, xi_202, u_1, xi_43, xi_44, xi_49, xi_71, xi_74,
    xi_75, xi_119, xi_120, xi_131, xi_132, xi_134, xi_198, u_2, xi_45, xi_46, xi_47, xi_50, xi_54,
    xi_55, xi_56, xi_59, xi_60, xi_61, xi_62, xi_64, xi_66, xi_67, xi_68, xi_70, xi_77, xi_79,
    xi_81, xi_82, xi_83, xi_84, xi_85, xi_86, xi_87, xi_88, xi_89, xi_91, xi_92, xi_93, xi_94,
    xi_95, xi_96, xi_97, xi_98, xi_99, xi_100, xi_115, xi_123, xi_155, xi_156, xi_157, xi_159,
    xi_161, xi_162, xi_163, xi_177, xi_182, xi_183, xi_191, xi_194, xi_199, xi_200, xi_201,
    xi_203, xi_204, xi_205, xi_211, xi_212, xi_213, xi_214, xi_230, xi_232, xi_233, xi_238,
    xi_239, xi_242, xi_245, xi_253, xi_255, xi_256, xi_257, xi_258, p_1, xi_208, xi_209, xi_210,
    p_2, xi_247, xi_248, xi_254, p_5, xi_217, xi_221, xi_240, forceTerm_0, forceTerm_1,
    forceTerm_2, forceTerm_3, forceTerm_4, forceTerm_5, forceTerm_6, forceTerm_7, forceTerm_8,
    forceTerm_9, forceTerm_10, forceTerm_11, forceTerm_12, forceTerm_13, forceTerm_14,
    forceTerm_15, forceTerm_16, forceTerm_17, forceTerm_18, store_0, store_1, store_2, store_3,
    store_4, store_5, store_6, store_7, store_8, store_9, store_10, store_11, store_12, store_13,
    store_14, store_15, store_16, store_17, store_18,
    r_xi_259, r_xi_260, r_xi_261, r_xi_262, r_xi_263, r_xi_264, r_xi_265, r_xi_266, r_xi_267,
    r_xi_268, r_xi_269, r_xi_270, r_xi_271, r_xi_272, r_xi_273, r_xi_274, r_xi_275, r_xi_276,
    r_xi_277, r_xi_278, r_xi_279, r_xi_280,
    h_r0, h_r1, h_r2, h_r3, h_r4, h_r5, h_r6, h_r7,
    h_sqrt, h_kT, h_bulk, h_even, h_odd, h_shear]

/-- With all four relaxation rates zero, `kT = 0` and no force, the collision writes back the
populations it read. -/
theorem round_trip_site [CharZero K] (s : Site K) (hkT : s.kT = 0) (hsqrt : s.sqrt 0 = 0)
    (hb : s.omega_bulk = 0) (he : s.omega_even = 0) (ho : s.omega_odd = 0)
    (hs : s.omega_shear = 0) (hF : ∀ a, s._data_force s.ctr_0 s.ctr_1 s.ctr_2 a = 0) (q : Fin 19) :
    values s q = s._data_pdfs s.ctr_0 s.ctr_1 s.ctr_2 q := by
  obtain ⟨z_xi_101, z_xi_102, z_xi_103, z_xi_104, z_xi_106, z_xi_107, z_xi_136, z_xi_137, z_xi_138,
      z_xi_139, z_xi_147, z_xi_148, z_xi_149, z_xi_152, z_xi_153, z_xi_154, z_xi_160, z_xi_171,
      z_xi_175, z_xi_185, z_xi_189, z_xi_193, z_xi_196, z_xi_206, z_xi_215, z_xi_219, z_xi_220,
      z_xi_226, z_xi_227, z_xi_228, z_xi_229, z_xi_236, z_xi_237, z_xi_241, z_xi_244, z_xi_246,
      z_xi_251, z_xi_252⟩ :=
    noise_zero s hkT hsqrt
  obtain ⟨v0, v1, v2, v3, v4, v5, v6, v7, v8, v9, v10, v11, v12, v13, v14, v15, v16, v17, v18⟩ := values_apply s
  have hF0 := hF 0
  have hF1 := hF 1
  have hF2 := hF 2
  revert q
  rw [forall_fin19, v0, v1, v2, v3, v4, v5, v6, v7, v8, v9, v10, v11, v12, v13, v14, v15, v16, v17, v18]
  refine ⟨?_, ?_, ?_, ?_, ?_, ?_, ?_, ?_, ?_, ?_, ?_, ?_, ?_, ?_, ?_, ?_, ?_, ?_, ?_⟩ <;>
  simp only [
    xi_40, xi_51, xi_52, xi_53, xi_58, xi_63, xi_73, xi_78, xi_129, xi_144, xi_207, xi_222,
    xi_224, rr_0, xi_133, xi_197, xi_259, xi_260, xi_261, xi_262, xi_263, xi_264, xi_265, xi_266,
    xi_267, xi_268, xi_269, xi_270, xi_271, xi_272, xi_273, xi_274, xi_275, xi_276, xi_277,
    xi_278, xi_279, xi_280, xi_0, xi_1, xi_2, xi_3, xi_4, xi_5, xi_6, xi_7, xi_8, xi_9, xi_10,
    xi_12, xi_13, xi_14, xi_15, xi_16, xi_17, xi_18, xi_19, xi_20, xi_21, xi_22, xi_23, xi_24,
    xi_25, xi_26, xi_27, xi_28, xi_29, xi_30, xi_31, xi_32, xi_33, xi_34, xi_35, xi_36, xi_37,
    xi_38, xi_39, xi_57, xi_65, xi_69, xi_72, xi_76, xi_80, xi_90, xi_108, xi_109, xi_110, xi_111,
    xi_112, xi_113, xi_116, xi_117, xi_118, xi_121, xi_122, xi_124, xi_125, xi_126, xi_127,
    xi_128, xi_130, xi_140, xi_141, xi_142, xi_143, xi_145, xi_168, xi_169, xi_172, xi_173,
    xi_179, xi_180, xi_181, xi_186, xi_187, xi_195, xi_216, xi_218, xi_223, xi_225, xi_234,
    xi_235, xi_243, xi_249, xi_250, vel0Term, vel1Term, vel2Term, xi_150, xi_158, xi_164, xi_176,
    xi_178, xi_190, xi_192, xi_231, xi_41, xi_42, xi_48, xi_114, xi_165, xi_166, xi_167, xi_202,
    xi_43, xi_44, xi_49, xi_71, xi_74, xi_75, xi_119, xi_120, xi_131, xi_132, xi_134, xi_198,
    xi_45, xi_46, xi_47, xi_50, xi_54, xi_55, xi_56, xi_59, xi_60, xi_61, xi_62, xi_64, xi_66,
    xi_67, xi_68, xi_70, xi_77, xi_79, xi_81, xi_82, xi_83, xi_84, xi_85, xi_86, xi_87, xi_88,
    xi_89, xi_91, xi_92, xi_93, xi_94, xi_95, xi_96, xi_97, xi_98, xi_99, xi_100, xi_115, xi_123,
    xi_155, xi_156, xi_157, xi_159, xi_161, xi_162, xi_163, xi_177, xi_182, xi_183, xi_191,
    xi_194, xi_199, xi_200, xi_201, xi_203, xi_204, xi_205, xi_211, xi_212, xi_213, xi_214,
    xi_230, xi_232, xi_233, xi_238, xi_239, xi_242, xi_245, xi_253, xi_255, xi_256, xi_257,
    xi_258, p_1, xi_208, xi_209, xi_210, p_2, xi_247, xi_248, xi_254, p_5, xi_217, xi_221, xi_240,
    forceTerm_0, forceTerm_1, forceTerm_2, forceTerm_3, forceTerm_4, forceTerm_5, forceTerm_6,
    forceTerm_7, forceTerm_8, forceTerm_9, forceTerm_10, forceTerm_11, forceTerm_12, forceTerm_13,
    forceTerm_14, forceTerm_15, forceTerm_16, forceTerm_17, forceTerm_18, store_0, store_1,
    store_2, store_3, store_4, store_5, store_6, store_7, store_8, store_9, store_10, store_11,
    store_12, store_13, store_14, store_15, store_16, store_17, store_18,
    z_xi_101, z_xi_102, z_xi_103, z_xi_104, z_xi_106, z_xi_107, z_xi_136, z_xi_137, z_xi_138,
    z_xi_139, z_xi_147, z_xi_148, z_xi_149, z_xi_152, z_xi_153, z_xi_154, z_xi_160, z_xi_171,
    z_xi_175, z_xi_185, z_xi_189, z_xi_193, z_xi_196, z_xi_206, z_xi_215, z_xi_219, z_xi_220,
    z_xi_226, z_xi_227, z_xi_228, z_xi_229, z_xi_236, z_xi_237, z_xi_241, z_xi_244, z_xi_246,
    z_xi_251, z_xi_252,
    hb, he, ho, hs, hF0, hF1, hF2, zero_mul, mul_zero, neg_zero, add_zero, zero_add, sub_zero, sub_self] <;>
  ring

/-- The rest state `f_q = w_q * rho0` is a fixed point of the collision when there is no force
and `kT = 0`, for all relaxation rates. -/
theorem rest_site [CharZero K] (s : Site K) (rho0 : K) (hkT : s.kT = 0) (hsqrt : s.sqrt 0 = 0)
    (hF : ∀ a, s._data_force s.ctr_0 s.ctr_1 s.ctr_2 a = 0)
    (hf : ∀ q, s._data_pdfs s.ctr_0 s.ctr_1 s.ctr_2 q = w q * rho0) (q : Fin 19) :
    values s q = w q * rho0 := by
  obtain ⟨z_xi_101, z_xi_102, z_xi_103, z_xi_104, z_xi_106, z_xi_107, z_xi_136, z_xi_137, z_xi_138,
      z_xi_139, z_xi_147, z_xi_148, z_xi_149, z_xi_152, z_xi_153, z_xi_154, z_xi_160, z_xi_171,
      z_xi_175, z_xi_185, z_xi_189, z_xi_193, z_xi_196, z_xi_206, z_xi_215, z_xi_219, z_xi_220,
      z_xi_226, z_xi_227, z_xi_228, z_xi_229, z_xi_236, z_xi_237, z_xi_241, z_xi_244, z_xi_246,
      z_xi_251, z_xi_252⟩ :=
    noise_zero s hkT hsqrt
  obtain ⟨v0, v1, v2, v3, v4, v5, v6, v7, v8, v9, v10, v11, v12, v13, v14, v15, v16, v17, v18⟩ := values_apply s
  obtain ⟨w0, w1, w2, w3, w4, w5, w6, w7, w8, w9, w10, w11, w12, w13, w14, w15, w16, w17, w18⟩ := @w_apply K _
  have hF0 := hF 0
  have hF1 := hF 1
  have hF2 := hF 2
  have f0 := hf 0
  have f1 := hf 1
  have f2 := hf 2
  have f3 := hf 3
  have f4 := hf 4
  have f5 := hf 5
  have f6 := hf 6
  have f7 := hf 7
  have f8 := hf 8
  have f9 := hf 9
  have f10 := hf 10
  have f11 := hf 11
  have f12 := hf 12
  have f13 := hf 13
  have f14 := hf 14
  have f15 := hf 15
  have f16 := hf 16
  have f17 := hf 17
  have f18 := hf 18
  rw [w0] at f0
  rw [w1] at f1
  rw [w2] at f2
  rw [w3] at f3
  rw [w4] at f4
  rw [w5] at f5
  rw [w6] at f6
  rw [w7] at f7
  rw [w8] at f8
  rw [w9] at f9
  rw [w10] at f10
  rw [w11] at f11
  rw [w12] at f12
  rw [w13] at f13
  rw [w14] at f14
  rw [w15] at f15
  rw [w16] at f16
  rw [w17] at f17
  rw [w18] at f18
  have e_u_0 : u_0 s = 0 := by
    simp only [
      xi_259, xi_262, xi_265, xi_266, xi_268, xi_269, xi_272, xi_274, xi_275, xi_276, xi_0, xi_1,
      xi_2, xi_12, xi_13, xi_14, xi_15, xi_16, xi_17, xi_18, xi_19, vel0Term, u_0,
      hF0, hF1, hF2, f0, f1, f2, f3, f4, f5, f6, f7, f8, f9, f10, f11, f12, f13, f14, f15, f16,
      f17, f18,
      zero_mul, mul_zero, neg_zero, add_zero, zero_add, sub_zero, sub_self] <;>
    ring
  have e_u_1 : u_1 s = 0 := by
    simp only [
      xi_259, xi_260, xi_264, xi_265, xi_269, xi_270, xi_274, xi_278, xi_279, xi_280, xi_3, xi_4,
      xi_5, xi_17, xi_20, xi_21, xi_22, xi_23, xi_24, xi_25, vel1Term, u_1,
      hF0, hF1, hF2, f0, f1, f2, f3, f4, f5, f6, f7, f8, f9, f10, f11, f12, f13, f14, f15, f16,
      f17, f18, e_u_0,
      zero_mul, mul_zero, neg_zero, add_zero, zero_add, sub_zero, sub_self] <;>
    ring
  have e_u_2 : u_2 s = 0 := by
    simp only [
      xi_261, xi_262, xi_264, xi_267, xi_270, xi_272, xi_275, xi_276, xi_279, xi_280, xi_6, xi_7,
      xi_12, xi_24, xi_26, xi_27, xi_28, xi_29, xi_30, vel2Term, u_2,
      hF0, hF1, hF2, f0, f1, f2, f3, f4, f5, f6, f7, f8, f9, f10, f11, f12, f13, f14, f15, f16,
      f17, f18, e_u_0, e_u_1,
      zero_mul, mul_zero, neg_zero, add_zero, zero_add, sub_zero, sub_self] <;>
    ring
  have e_rho : rho s = rho0 := by
    simp only [
      xi_259, xi_260, xi_261, xi_262, xi_263, xi_264, xi_265, xi_266, xi_267, xi_268, xi_269,
      xi_270, xi_272, xi_274, xi_275, xi_276, xi_278, xi_279, xi_280, xi_0, xi_1, xi_2, xi_3,
      xi_4, xi_5, xi_6, xi_7, xi_8, xi_9, xi_10, vel0Term, vel1Term, vel2Term, rho,
      hF0, hF1, hF2, f0, f1, f2, f3, f4, f5, f6, f7, f8, f9, f10, f11, f12, f13, f14, f15, f16,
      f17, f18, e_u_0, e_u_1, e_u_2,
      zero_mul, mul_zero, neg_zero, add_zero, zero_add, sub_zero, sub_self] <;>
    ring
  have e_xi_110 : xi_110 s = 0 := by
    simp only [
      xi_260, xi_261, xi_263, xi_264, xi_267, xi_270, xi_278, xi_279, xi_280, xi_108, xi_109,
      xi_110,
      hF0, hF1, hF2, f0, f1, f2, f3, f4, f5, f6, f7, f8, f9, f10, f11, f12, f13, f14, f15, f16,
      f17, f18, e_u_0, e_u_1, e_u_2, e_rho,
      zero_mul, mul_zero, neg_zero, add_zero, zero_add, sub_zero, sub_self] <;>
    ring
  have e_xi_113 : xi_113 s = 0 := by
    simp only [
      xi_260, xi_261, xi_262, xi_263, xi_264, xi_266, xi_267, xi_268, xi_270, xi_272, xi_275,
      xi_276, xi_278, xi_279, xi_280, xi_108, xi_109, xi_111, xi_112, xi_113,
      hF0, hF1, hF2, f0, f1, f2, f3, f4, f5, f6, f7, f8, f9, f10, f11, f12, f13, f14, f15, f16,
      f17, f18, e_u_0, e_u_1, e_u_2, e_rho, e_xi_110,
      zero_mul, mul_zero, neg_zero, add_zero, zero_add, sub_zero, sub_self] <;>
    ring
  have e_xi_127 : xi_127 s = 0 := by
    simp only [
      xi_259, xi_260, xi_261, xi_262, xi_263, xi_264, xi_265, xi_266, xi_267, xi_268, xi_269,
      xi_270, xi_272, xi_274, xi_275, xi_276, xi_278, xi_279, xi_280, xi_108, xi_111, xi_112,
      xi_124, xi_125, xi_126, xi_127,
      hF0, hF1, hF2, f0, f1, f2, f3, f4, f5, f6, f7, f8, f9, f10, f11, f12, f13, f14, f15, f16,
      f17, f18, e_u_0, e_u_1, e_u_2, e_rho, e_xi_110, e_xi_113,
      zero_mul, mul_zero, neg_zero, add_zero, zero_add, sub_zero, sub_self] <;>
    ring
  have e_xi_123 : xi_123 s = 0 := by
    simp only [
      xi_259, xi_262, xi_263, xi_264, xi_265, xi_269, xi_270, xi_272, xi_274, xi_275, xi_276,
      xi_279, xi_280, xi_12, xi_15, xi_16, xi_17, xi_18, xi_19, xi_20, xi_22, xi_24, xi_26, xi_27,
      xi_28, xi_116, xi_117, xi_118, xi_121, xi_122, xi_114, xi_119, xi_120, xi_115, xi_123,
      hF0, hF1, hF2, f0, f1, f2, f3, f4, f5, f6, f7, f8, f9, f10, f11, f12, f13, f14, f15, f16,
      f17, f18, e_u_0, e_u_1, e_u_2, e_rho, e_xi_110, e_xi_113, e_xi_127,
      zero_mul, mul_zero, neg_zero, add_zero, zero_add, sub_zero, sub_self] <;>
    ring
  have e_xi_156 : xi_156 s = 0 := by
    simp only [
      xi_259, xi_260, xi_261, xi_262, xi_265, xi_267, xi_269, xi_272, xi_274, xi_275, xi_276,
      xi_278, xi_1, xi_16, xi_17, xi_18, xi_20, xi_23, xi_31, xi_118, xi_119, xi_120, xi_115,
      xi_155, xi_156,
      hF0, hF1, hF2, f0, f1, f2, f3, f4, f5, f6, f7, f8, f9, f10, f11, f12, f13, f14, f15, f16,
      f17, f18, e_u_0, e_u_1, e_u_2, e_rho, e_xi_110, e_xi_113, e_xi_127, e_xi_123,
      zero_mul, mul_zero, neg_zero, add_zero, zero_add, sub_zero, sub_self] <;>
    ring
  have e_xi_159 : xi_159 s = 0 := by
    simp only [
      xi_259, xi_260, xi_261, xi_262, xi_264, xi_265, xi_266, xi_267, xi_268, xi_269, xi_270,
      xi_272, xi_274, xi_275, xi_276, xi_278, xi_279, xi_280, xi_12, xi_15, xi_16, xi_17, xi_18,
      xi_19, xi_20, xi_26, xi_27, xi_111, xi_118, xi_121, xi_122, xi_114, xi_119, xi_115, xi_155,
      xi_159,
      hF0, hF1, hF2, f0, f1, f2, f3, f4, f5, f6, f7, f8, f9, f10, f11, f12, f13, f14, f15, f16,
      f17, f18, e_u_0, e_u_1, e_u_2, e_rho, e_xi_110, e_xi_113, e_xi_127, e_xi_123, e_xi_156,
      zero_mul, mul_zero, neg_zero, add_zero, zero_add, sub_zero, sub_self] <;>
    ring
  have e_xi_128 : xi_128 s = 0 := by
    simp only [
      xi_260, xi_264, xi_270, xi_278, xi_279, xi_280, xi_23, xi_28, xi_38, xi_116, xi_128,
      hF0, hF1, hF2, f0, f1, f2, f3, f4, f5, f6, f7, f8, f9, f10, f11, f12, f13, f14, f15, f16,
      f17, f18, e_u_0, e_u_1, e_u_2, e_rho, e_xi_110, e_xi_113, e_xi_127, e_xi_123, e_xi_156,
      e_xi_159,
      zero_mul, mul_zero, neg_zero, add_zero, zero_add, sub_zero, sub_self] <;>
    ring
  have e_xi_143 : xi_143 s = 0 := by
    simp only [
      xi_259, xi_260, xi_264, xi_265, xi_269, xi_270, xi_274, xi_278, xi_279, xi_280, xi_3, xi_4,
      xi_22, xi_23, xi_24, xi_25, xi_140, xi_141, xi_142, xi_143,
      hF0, hF1, hF2, f0, f1, f2, f3, f4, f5, f6, f7, f8, f9, f10, f11, f12, f13, f14, f15, f16,
      f17, f18, e_u_0, e_u_1, e_u_2, e_rho, e_xi_110, e_xi_113, e_xi_127, e_xi_123, e_xi_156,
      e_xi_159, e_xi_128,
      zero_mul, mul_zero, neg_zero, add_zero, zero_add, sub_zero, sub_self] <;>
    ring
  have e_xi_168 : xi_168 s = 0 := by
    simp only [
      xi_262, xi_266, xi_268, xi_272, xi_275, xi_276, xi_13, xi_26, xi_34, xi_121, xi_168,
      hF0, hF1, hF2, f0, f1, f2, f3, f4, f5, f6, f7, f8, f9, f10, f11, f12, f13, f14, f15, f16,
      f17, f18, e_u_0, e_u_1, e_u_2, e_rho, e_xi_110, e_xi_113, e_xi_127, e_xi_123, e_xi_156,
      e_xi_159, e_xi_128, e_xi_143,
      zero_mul, mul_zero, neg_zero, add_zero, zero_add, sub_zero, sub_self] <;>
    ring
  have e_xi_172 : xi_172 s = 0 := by
    simp only [
      xi_259, xi_262, xi_265, xi_266, xi_268, xi_269, xi_272, xi_274, xi_275, xi_276, xi_12,
      xi_13, xi_14, xi_15, xi_35, xi_140, xi_141, xi_142, xi_172,
      hF0, hF1, hF2, f0, f1, f2, f3, f4, f5, f6, f7, f8, f9, f10, f11, f12, f13, f14, f15, f16,
      f17, f18, e_u_0, e_u_1, e_u_2, e_rho, e_xi_110, e_xi_113, e_xi_127, e_xi_123, e_xi_156,
      e_xi_159, e_xi_128, e_xi_143, e_xi_168,
      zero_mul, mul_zero, neg_zero, add_zero, zero_add, sub_zero, sub_self] <;>
    ring
  have e_xi_180 : xi_180 s = 0 := by
    simp only [
      xi_261, xi_264, xi_267, xi_270, xi_279, xi_280, xi_22, xi_29, xi_116, xi_117, xi_179, xi_180,
      hF0, hF1, hF2, f0, f1, f2, f3, f4, f5, f6, f7, f8, f9, f10, f11, f12, f13, f14, f15, f16,
      f17, f18, e_u_0, e_u_1, e_u_2, e_rho, e_xi_110, e_xi_113, e_xi_127, e_xi_123, e_xi_156,
      e_xi_159, e_xi_128, e_xi_143, e_xi_168, e_xi_172,
      zero_mul, mul_zero, neg_zero, add_zero, zero_add, sub_zero, sub_self] <;>
    ring
  have e_xi_186 : xi_186 s = 0 := by
    simp only [
      xi_261, xi_262, xi_264, xi_267, xi_270, xi_272, xi_275, xi_276, xi_279, xi_280, xi_6, xi_24,
      xi_28, xi_29, xi_30, xi_124, xi_125, xi_126, xi_186,
      hF0, hF1, hF2, f0, f1, f2, f3, f4, f5, f6, f7, f8, f9, f10, f11, f12, f13, f14, f15, f16,
      f17, f18, e_u_0, e_u_1, e_u_2, e_rho, e_xi_110, e_xi_113, e_xi_127, e_xi_123, e_xi_156,
      e_xi_159, e_xi_128, e_xi_143, e_xi_168, e_xi_172, e_xi_180,
      zero_mul, mul_zero, neg_zero, add_zero, zero_add, sub_zero, sub_self] <;>
    ring
  have e_xi_208 : xi_208 s = 0 := by
    simp only [
      xi_207, xi_259, xi_265, xi_269, xi_274, xi_16, xi_20, xi_21, xi_33, xi_131, p_1, xi_208,
      hF0, hF1, hF2, f0, f1, f2, f3, f4, f5, f6, f7, f8, f9, f10, f11, f12, f13, f14, f15, f16,
      f17, f18, e_u_0, e_u_1, e_u_2, e_rho, e_xi_110, e_xi_113, e_xi_127, e_xi_123, e_xi_156,
      e_xi_159, e_xi_128, e_xi_143, e_xi_168, e_xi_172, e_xi_180, e_xi_186,
      zero_mul, mul_zero, neg_zero, add_zero, zero_add, sub_zero, sub_self] <;>
    ring
  have e_xi_217 : xi_217 s = 0 := by
    simp only [
      xi_207, xi_264, xi_270, xi_279, xi_280, xi_22, xi_28, xi_38, xi_39, xi_131, p_5, xi_217,
      hF0, hF1, hF2, f0, f1, f2, f3, f4, f5, f6, f7, f8, f9, f10, f11, f12, f13, f14, f15, f16,
      f17, f18, e_u_0, e_u_1, e_u_2, e_rho, e_xi_110, e_xi_113, e_xi_127, e_xi_123, e_xi_156,
      e_xi_159, e_xi_128, e_xi_143, e_xi_168, e_xi_172, e_xi_180, e_xi_186, e_xi_208,
      zero_mul, mul_zero, neg_zero, add_zero, zero_add, sub_zero, sub_self] <;>
    ring
  have e_xi_247 : xi_247 s = 0 := by
    simp only [
      xi_207, xi_262, xi_272, xi_275, xi_276, xi_15, xi_26, xi_34, xi_35, xi_36, xi_165, p_2,
      xi_247,
      hF0, hF1, hF2, f0, f1, f2, f3, f4, f5, f6, f7, f8, f9, f10, f11, f12, f13, f14, f15, f16,
      f17, f18, e_u_0, e_u_1, e_u_2, e_rho, e_xi_110, e_xi_113, e_xi_127, e_xi_123, e_xi_156,
      e_xi_159, e_xi_128, e_xi_143, e_xi_168, e_xi_172, e_xi_180, e_xi_186, e_xi_208, e_xi_217,
      zero_mul, mul_zero, neg_zero, add_zero, zero_add, sub_zero, sub_self] <;>
    ring
  have e_xi_47 : xi_47 s = 0 := by
    simp only [
      xi_40, xi_271, xi_273, xi_277, xi_41, xi_42, xi_43, xi_44, xi_45, xi_46, xi_47,
      hF0, hF1, hF2, f0, f1, f2, f3, f4, f5, f6, f7, f8, f9, f10, f11, f12, f13, f14, f15, f16,
      f17, f18, e_u_0, e_u_1, e_u_2, e_rho, e_xi_110, e_xi_113, e_xi_127, e_xi_123, e_xi_156,
      e_xi_159, e_xi_128, e_xi_143, e_xi_168, e_xi_172, e_xi_180, e_xi_186, e_xi_208, e_xi_217,
      e_xi_247,
      zero_mul, mul_zero, neg_zero, add_zero, zero_add, sub_zero, sub_self] <;>
    ring
  have e_xi_50 : xi_50 s = 0 := by
    simp only [
      xi_271, xi_273, xi_277, xi_41, xi_42, xi_48, xi_43, xi_44, xi_49, xi_45, xi_50,
      hF0, hF1, hF2, f0, f1, f2, f3, f4, f5, f6, f7, f8, f9, f10, f11, f12, f13, f14, f15, f16,
      f17, f18, e_u_0, e_u_1, e_u_2, e_rho, e_xi_110, e_xi_113, e_xi_127, e_xi_123, e_xi_156,
      e_xi_159, e_xi_128, e_xi_143, e_xi_168, e_xi_172, e_xi_180, e_xi_186, e_xi_208, e_xi_217,
      e_xi_247, e_xi_47,
      zero_mul, mul_zero, neg_zero, add_zero, zero_add, sub_zero, sub_self] <;>
    ring
  have e_xi_55 : xi_55 s = 0 := by
    simp only [
      xi_271, xi_273, xi_277, xi_41, xi_42, xi_48, xi_43, xi_45, xi_46, xi_54, xi_55,
      hF0, hF1, hF2, f0, f1, f2, f3, f4, f5, f6, f7, f8, f9, f10, f11, f12, f13, f14, f15, f16,
      f17, f18, e_u_0, e_u_1, e_u_2, e_rho, e_xi_110, e_xi_113, e_xi_127, e_xi_123, e_xi_156,
      e_xi_159, e_xi_128, e_xi_143, e_xi_168, e_xi_172, e_xi_180, e_xi_186, e_xi_208, e_xi_217,
      e_xi_247, e_xi_47, e_xi_50,
      zero_mul, mul_zero, neg_zero, add_zero, zero_add, sub_zero, sub_self] <;>
    ring
  have e_xi_56 : xi_56 s = 0 := by
    simp only [
      xi_271, xi_273, xi_277, xi_41, xi_43, xi_44, xi_49, xi_45, xi_46, xi_54, xi_56,
      hF0, hF1, hF2, f0, f1, f2, f3, f4, f5, f6, f7, f8, f9, f10, f11, f12, f13, f14, f15, f16,
      f17, f18, e_u_0, e_u_1, e_u_2, e_rho, e_xi_110, e_xi_113, e_xi_127, e_xi_123, e_xi_156,
      e_xi_159, e_xi_128, e_xi_143, e_xi_168, e_xi_172, e_xi_180, e_xi_186, e_xi_208, e_xi_217,
      e_xi_247, e_xi_47, e_xi_50, e_xi_55,
      zero_mul, mul_zero, neg_zero, add_zero, zero_add, sub_zero, sub_self] <;>
    ring
  have e_xi_74 : xi_74 s = 0 := by
    simp only [
      xi_51, xi_52, xi_73, xi_271, xi_277, xi_72, xi_71, xi_74,
      hF0, hF1, hF2, f0, f1, f2, f3, f4, f5, f6, f7, f8, f9, f10, f11, f12, f13, f14, f15, f16,
      f17, f18, e_u_0, e_u_1, e_u_2, e_rho, e_xi_110, e_xi_113, e_xi_127, e_xi_123, e_xi_156,
      e_xi_159, e_xi_128, e_xi_143, e_xi_168, e_xi_172, e_xi_180, e_xi_186, e_xi_208, e_xi_217,
      e_xi_247, e_xi_47, e_xi_50, e_xi_55, e_xi_56,
      zero_mul, mul_zero, neg_zero, add_zero, zero_add, sub_zero, sub_self] <;>
    ring
  have e_xi_88 : xi_88 s = 0 := by
    simp only [
      xi_51, xi_52, xi_73, xi_271, xi_273, xi_72, xi_71, xi_88,
      hF0, hF1, hF2, f0, f1, f2, f3, f4, f5, f6, f7, f8, f9, f10, f11, f12, f13, f14, f15, f16,
      f17, f18, e_u_0, e_u_1, e_u_2, e_rho, e_xi_110, e_xi_113, e_xi_127, e_xi_123, e_xi_156,
      e_xi_159, e_xi_128, e_xi_143, e_xi_168, e_xi_172, e_xi_180, e_xi_186, e_xi_208, e_xi_217,
      e_xi_247, e_xi_47, e_xi_50, e_xi_55, e_xi_56, e_xi_74,
      zero_mul, mul_zero, neg_zero, add_zero, zero_add, sub_zero, sub_self] <;>
    ring
  have e_xi_94 : xi_94 s = 0 := by
    simp only [
      xi_51, xi_52, xi_73, xi_273, xi_277, xi_94,
      hF0, hF1, hF2, f0, f1, f2, f3, f4, f5, f6, f7, f8, f9, f10, f11, f12, f13, f14, f15, f16,
      f17, f18, e_u_0, e_u_1, e_u_2, e_rho, e_xi_110, e_xi_113, e_xi_127, e_xi_123, e_xi_156,
      e_xi_159, e_xi_128, e_xi_143, e_xi_168, e_xi_172, e_xi_180, e_xi_186, e_xi_208, e_xi_217,
      e_xi_247, e_xi_47, e_xi_50, e_xi_55, e_xi_56, e_xi_74, e_xi_88,
      zero_mul, mul_zero, neg_zero, add_zero, zero_add, sub_zero, sub_self] <;>
    ring
  revert q
  rw [forall_fin19, v0, v1, v2, v3, v4, v5, v6, v7, v8, v9, v10, v11, v12, v13, v14, v15, v16, v17, v18,
    w0, w1, w2, w3, w4, w5, w6, w7, w8, w9, w10, w11, w12, w13, w14, w15, w16, w17, w18]
  refine ⟨?_, ?_, ?_, ?_, ?_, ?_, ?_, ?_, ?_, ?_, ?_, ?_, ?_, ?_, ?_, ?_, ?_, ?_, ?_⟩ <;>
  simp only [
    xi_51, xi_52, xi_53, xi_58, xi_63, xi_78, xi_129, xi_144, xi_222, xi_224, rr_0, xi_133,
    xi_197, xi_259, xi_260, xi_261, xi_262, xi_263, xi_264, xi_265, xi_266, xi_267, xi_268,
    xi_269, xi_270, xi_271, xi_272, xi_273, xi_274, xi_275, xi_276, xi_277, xi_278, xi_279,
    xi_280, xi_57, xi_65, xi_69, xi_76, xi_80, xi_90, xi_130, xi_145, xi_169, xi_173, xi_181,
    xi_187, xi_195, xi_216, xi_218, xi_223, xi_225, xi_234, xi_235, xi_243, xi_249, xi_250,
    xi_150, xi_158, xi_164, xi_176, xi_178, xi_190, xi_192, xi_231, xi_167, xi_202, xi_75, xi_134,
    xi_198, xi_59, xi_60, xi_61, xi_62, xi_64, xi_66, xi_67, xi_68, xi_70, xi_77, xi_79, xi_81,
    xi_82, xi_83, xi_84, xi_85, xi_86, xi_87, xi_89, xi_91, xi_92, xi_93, xi_95, xi_96, xi_97,
    xi_98, xi_99, xi_100, xi_157, xi_161, xi_162, xi_163, xi_177, xi_183, xi_191, xi_194, xi_199,
    xi_200, xi_201, xi_203, xi_204, xi_205, xi_211, xi_212, xi_213, xi_214, xi_230, xi_232,
    xi_233, xi_238, xi_239, xi_242, xi_245, xi_253, xi_255, xi_256, xi_257, xi_258, xi_209,
    xi_210, xi_248, xi_254, xi_221, xi_240, forceTerm_0, forceTerm_1, forceTerm_2, forceTerm_3,
    forceTerm_4, forceTerm_5, forceTerm_6, forceTerm_7, forceTerm_8, forceTerm_9, forceTerm_10,
    forceTerm_11, forceTerm_12, forceTerm_13, forceTerm_14, forceTerm_15, forceTerm_16,
    forceTerm_17, forceTerm_18, store_0, store_1, store_2, store_3, store_4, store_5, store_6,
    store_7, store_8, store_9, store_10, store_11, store_12, store_13, store_14, store_15,
    store_16, store_17, store_18,
    z_xi_101, z_xi_102, z_xi_103, z_xi_104, z_xi_106, z_xi_107, z_xi_136, z_xi_137, z_xi_138,
    z_xi_139, z_xi_147, z_xi_148, z_xi_149, z_xi_152, z_xi_153, z_xi_154, z_xi_160, z_xi_171,
    z_xi_175, z_xi_185, z_xi_189, z_xi_193, z_xi_196, z_xi_206, z_xi_215, z_xi_219, z_xi_220,
    z_xi_226, z_xi_227, z_xi_228, z_xi_229, z_xi_236, z_xi_237, z_xi_241, z_xi_244, z_xi_246,
    z_xi_251, z_xi_252,
    hF0, hF1, hF2, f0, f1, f2, f3, f4, f5, f6, f7, f8, f9, f10, f11, f12, f13, f14, f15, f16, f17,
    f18, e_u_0, e_u_1, e_u_2, e_rho, e_xi_110, e_xi_113, e_xi_127, e_xi_123, e_xi_156, e_xi_159,
    e_xi_128, e_xi_143, e_xi_168, e_xi_172, e_xi_180, e_xi_186, e_xi_208, e_xi_217, e_xi_247,
    e_xi_47, e_xi_50, e_xi_55, e_xi_56, e_xi_74, e_xi_88, e_xi_94,
    zero_mul, mul_zero, neg_zero, add_zero, zero_add, sub_zero, sub_self] <;>
  ring

end FluctuatingMRTLatticeModel.kernel_collide

/-! ## The fused kernel, local by local, against streaming followed by collision -/

theorem pulled_sqrt (s : Site K) : (pulled s).sqrt = s.sqrt := rfl

theorem pulled_philox_double2 (s : Site K) : (pulled s).philox_double2 = s.philox_double2 := rfl

theorem pulled__data_force (s : Site K) : (pulled s)._data_force = s._data_force := rfl

theorem pulled_block_offset_0 (s : Site K) : (pulled s).block_offset_0 = s.block_offset_0 := rfl

theorem pulled_block_offset_1 (s : Site K) : (pulled s).block_offset_1 = s.block_offset_1 := rfl

theorem pulled_block_offset_2 (s : Site K) : (pulled s).block_offset_2 = s.block_offset_2 := rfl

theorem pulled_kT (s : Site K) : (pulled s).kT = s.kT := rfl

theorem pulled_omega_bulk (s : Site K) : (pulled s).omega_bulk = s.omega_bulk := rfl

theorem pulled_omega_even (s : Site K) : (pulled s).omega_even = s.omega_even := rfl

theorem pulled_omega_odd (s : Site K) : (pulled s).omega_odd = s.omega_odd := rfl

theorem pulled_omega_shear (s : Site K) : (pulled s).omega_shear = s.omega_shear := rfl

theorem pulled_seed (s : Site K) : (pulled s).seed = s.seed := rfl

theorem pulled_time_step (s : Site K) : (pulled s).time_step = s.time_step := rfl

theorem pulled_ctr_0 (s : Site K) : (pulled s).ctr_0 = s.ctr_0 := rfl

theorem pulled_ctr_1 (s : Site K) : (pulled s).ctr_1 = s.ctr_1 := rfl

theorem pulled_ctr_2 (s : Site K) : (pulled s).ctr_2 = s.ctr_2 := rfl

namespace FluctuatingMRTLatticeModel

theorem kernel_collide.xi_259_pulled (s : Site K) :
    kernel_collide.xi_259 (pulled s) = s._data_pdfs (s.ctr_0 - 1) (s.ctr_1 - 1) s.ctr_2 8 := rfl

theorem kernel_collide.xi_260_pulled (s : Site K) :
    kernel_collide.xi_260 (pulled s) = s._data_pdfs s.ctr_0 (s.ctr_1 - 1) s.ctr_2 1 := rfl

theorem kernel_collide.xi_261_pulled (s : Site K) :
    kernel_collide.xi_261 (pulled s) = s._data_pdfs s.ctr_0 s.ctr_1 (s.ctr_2 - 1) 5 := rfl

theorem kernel_collide.xi_262_pulled (s : Site K) :
    kernel_collide.xi_262 (pulled s) = s._data_pdfs (s.ctr_0 - 1) s.ctr_1 (s.ctr_2 + 1) 18 := rfl

theorem kernel_collide.xi_263_pulled (s : Site K) :
    kernel_collide.xi_263 (pulled s) = s._data_pdfs s.ctr_0 s.ctr_1 s.ctr_2 0 := rfl

theorem kernel_collide.xi_264_pulled (s : Site K) :
    kernel_collide.xi_264 (pulled s) = s._data_pdfs s.ctr_0 (s.ctr_1 - 1) (s.ctr_2 - 1) 11 := rfl

theorem kernel_collide.xi_265_pulled (s : Site K) :
    kernel_collide.xi_265 (pulled s) = s._data_pdfs (s.ctr_0 - 1) (s.ctr_1 + 1) s.ctr_2 10 := rfl

theorem kernel_collide.xi_266_pulled (s : Site K) :
    kernel_collide.xi_266 (pulled s) = s._data_pdfs (s.ctr_0 - 1) s.ctr_1 s.ctr_2 4 := rfl

theorem kernel_collide.xi_267_pulled (s : Site K) :
    kernel_collide.xi_267 (pulled s) = s._data_pdfs s.ctr_0 s.ctr_1 (s.ctr_2 + 1) 6 := rfl

theorem kernel_collide.xi_268_pulled (s : Site K) :
    kernel_collide.xi_268 (pulled s) = s._data_pdfs (s.ctr_0 + 1) s.ctr_1 s.ctr_2 3 := rfl

theorem kernel_collide.xi_269_pulled (s : Site K) :
    kernel_collide.xi_269 (pulled s) = s._data_pdfs (s.ctr_0 + 1) (s.ctr_1 - 1) s.ctr_2 7 := rfl

theorem kernel_collide.xi_270_pulled (s : Site K) :
    kernel_collide.xi_270 (pulled s) = s._data_pdfs s.ctr_0 (s.ctr_1 - 1) (s.ctr_2 + 1) 15 := rfl

theorem kernel_collide.xi_271_pulled (s : Site K) :
    kernel_collide.xi_271 (pulled s) = s._data_force s.ctr_0 s.ctr_1 s.ctr_2 1 := rfl

theorem kernel_collide.xi_272_pulled (s : Site K) :
    kernel_collide.xi_272 (pulled s) = s._data_pdfs (s.ctr_0 - 1) s.ctr_1 (s.ctr_2 - 1) 14 := rfl

theorem kernel_collide.xi_273_pulled (s : Site K) :
    kernel_collide.xi_273 (pulled s) = s._data_force s.ctr_0 s.ctr_1 s.ctr_2 2 := rfl

theorem kernel_collide.xi_274_pulled (s : Site K) :
    kernel_collide.xi_274 (pulled s) = s._data_pdfs (s.ctr_0 + 1) (s.ctr_1 + 1) s.ctr_2 9 := rfl

theorem kernel_collide.xi_275_pulled (s : Site K) :
    kernel_collide.xi_275 (pulled s) = s._data_pdfs (s.ctr_0 + 1) s.ctr_1 (s.ctr_2 - 1) 13 := rfl

theorem kernel_collide.xi_276_pulled (s : Site K) :
    kernel_collide.xi_276 (pulled s) = s._data_pdfs (s.ctr_0 + 1) s.ctr_1 (s.ctr_2 + 1) 17 := rfl

theorem kernel_collide.xi_277_pulled (s : Site K) :
    kernel_collide.xi_277 (pulled s) = s._data_force s.ctr_0 s.ctr_1 s.ctr_2 0 := rfl

theorem kernel_collide.xi_278_pulled (s : Site K) :
    kernel_collide.xi_278 (pulled s) = s._data_pdfs s.ctr_0 (s.ctr_1 + 1) s.ctr_2 2 := rfl

theorem kernel_collide.xi_279_pulled (s : Site K) :
    kernel_collide.xi_279 (pulled s) = s._data_pdfs s.ctr_0 (s.ctr_1 + 1) (s.ctr_2 - 1) 12 := rfl

theorem kernel_collide.xi_280_pulled (s : Site K) :
    kernel_collide.xi_280 (pulled s) = s._data_pdfs s.ctr_0 (s.ctr_1 + 1) (s.ctr_2 + 1) 16 := rfl

theorem kernel_streamCollide.xi_40_pull (s : Site K) :
    kernel_streamCollide.xi_40 s = kernel_collide.xi_40 (pulled s) := by
  simp only [
    kernel_streamCollide.xi_40, kernel_collide.xi_40, pulled_omega_bulk s] <;>
  ring

theorem kernel_streamCollide.xi_51_pull (s : Site K) :
    kernel_streamCollide.xi_51 s = kernel_collide.xi_51 (pulled s) := by
  simp only [
    kernel_streamCollide.xi_51, kernel_collide.xi_51, pulled_omega_shear s] <;>
  ring

theorem kernel_streamCollide.xi_52_pull (s : Site K) :
    kernel_streamCollide.xi_52 s = kernel_collide.xi_52 (pulled s) := by
  simp only [
    kernel_streamCollide.xi_52, kernel_collide.xi_52, kernel_streamCollide.xi_51_pull s] <;>
  ring

theorem kernel_streamCollide.xi_53_pull (s : Site K) :
    kernel_streamCollide.xi_53 s = kernel_collide.xi_53 (pulled s) := by
  simp only [
    kernel_streamCollide.xi_53, kernel_collide.xi_53, kernel_streamCollide.xi_52_pull s] <;>
  ring

theorem kernel_streamCollide.xi_58_pull (s : Site K) :
    kernel_streamCollide.xi_58 s = kernel_collide.xi_58 (pulled s) := by
  simp only [
    kernel_streamCollide.xi_58, kernel_collide.xi_58, kernel_streamCollide.xi_52_pull s] <;>
  ring

theorem kernel_streamCollide.xi_63_pull (s : Site K) :
    kernel_streamCollide.xi_63 s = kernel_collide.xi_63 (pulled s) := by
  simp only [
    kernel_streamCollide.xi_63, kernel_collide.xi_63, kernel_streamCollide.xi_52_pull s] <;>
  ring

theorem kernel_streamCollide.xi_73_pull (s : Site K) :
    kernel_streamCollide.xi_73 s = kernel_collide.xi_73 (pulled s) := by
  simp only [
    kernel_streamCollide.xi_73, kernel_collide.xi_73, kernel_streamCollide.xi_52_pull s] <;>
  ring

theorem kernel_streamCollide.xi_78_pull (s : Site K) :
    kernel_streamCollide.xi_78 s = kernel_collide.xi_78 (pulled s) := by
  simp only [
    kernel_streamCollide.xi_78, kernel_collide.xi_78, kernel_streamCollide.xi_52_pull s] <;>
  ring

theorem kernel_streamCollide.xi_105_pull (s : Site K) :
    kernel_streamCollide.xi_105 s = kernel_collide.xi_105 (pulled s) := by
  simp only [
    kernel_streamCollide.xi_105, kernel_collide.xi_105] <;>
  ring

theorem kernel_streamCollide.xi_129_pull (s : Site K) :
    kernel_streamCollide.xi_129 s = kernel_collide.xi_129 (pulled s) := by
  simp only [
    kernel_streamCollide.xi_129, kernel_collide.xi_129, pulled_omega_odd s] <;>
  ring

theorem kernel_streamCollide.xi_144_pull (s : Site K) :
    kernel_streamCollide.xi_144 s = kernel_collide.xi_144 (pulled s) := by
  simp only [
    kernel_streamCollide.xi_144, kernel_collide.xi_144, pulled_omega_odd s] <;>
  ring

theorem kernel_streamCollide.xi_207_pull (s : Site K) :
    kernel_streamCollide.xi_207 s = kernel_collide.xi_207 (pulled s) := by
  simp only [
    kernel_streamCollide.xi_207, kernel_collide.xi_207, pulled_omega_shear s] <;>
  ring

theorem kernel_streamCollide.xi_222_pull (s : Site K) :
    kernel_streamCollide.xi_222 s = kernel_collide.xi_222 (pulled s) := by
  simp only [
    kernel_streamCollide.xi_222, kernel_collide.xi_222, pulled_omega_odd s] <;>
  ring

theorem kernel_streamCollide.xi_224_pull (s : Site K) :
    kernel_streamCollide.xi_224 s = kernel_collide.xi_224 (pulled s) := by
  simp only [
    kernel_streamCollide.xi_224, kernel_collide.xi_224, pulled_omega_odd s] <;>
  ring

theorem kernel_streamCollide.rr_0_pull (s : Site K) :
    kernel_streamCollide.rr_0 s = kernel_collide.rr_0 (pulled s) := by
  simp only [
    kernel_streamCollide.rr_0, kernel_collide.rr_0] <;>
  ring

theorem kernel_streamCollide.xi_133_pull (s : Site K) :
    kernel_streamCollide.xi_133 s = kernel_collide.xi_133 (pulled s) := by
  simp only [
    kernel_streamCollide.xi_133, kernel_collide.xi_133, kernel_streamCollide.rr_0_pull s] <;>
  ring

theorem kernel_streamCollide.xi_197_pull (s : Site K) :
    kernel_streamCollide.xi_197 s = kernel_collide.xi_197 (pulled s) := by
  simp only [
    kernel_streamCollide.xi_197, kernel_collide.xi_197, kernel_streamCollide.rr_0_pull s] <;>
  ring

theorem kernel_streamCollide.random_7_pull (s : Site K) :
    kernel_streamCollide.random_7 s = kernel_collide.random_7 (pulled s) := by
  simp only [
    kernel_streamCollide.random_7, kernel_collide.random_7, pulled_philox_double2 s,
    pulled_block_offset_0 s, pulled_block_offset_1 s, pulled_block_offset_2 s, pulled_seed s,
    pulled_time_step s, pulled_ctr_0 s, pulled_ctr_1 s, pulled_ctr_2 s]

theorem kernel_streamCollide.random_7_0_pull (s : Site K) :
    kernel_streamCollide.random_7_0 s = kernel_collide.random_7_0 (pulled s) := by
  simp only [
    kernel_streamCollide.random_7_0, kernel_collide.random_7_0, kernel_streamCollide.random_7_pull
    s] <;>
  ring

theorem kernel_streamCollide.random_7_1_pull (s : Site K) :
    kernel_streamCollide.random_7_1 s = kernel_collide.random_7_1 (pulled s) := by
  simp only [
    kernel_streamCollide.random_7_1, kernel_collide.random_7_1, kernel_streamCollide.random_7_pull
    s] <;>
  ring

theorem kernel_streamCollide.random_6_pull (s : Site K) :
    kernel_streamCollide.random_6 s = kernel_collide.random_6 (pulled s) := by
  simp only [
    kernel_streamCollide.random_6, kernel_collide.random_6, pulled_philox_double2 s,
    pulled_block_offset_0 s, pulled_block_offset_1 s, pulled_block_offset_2 s, pulled_seed s,
    pulled_time_step s, pulled_ctr_0 s, pulled_ctr_1 s, pulled_ctr_2 s]

theorem kernel_streamCollide.random_6_0_pull (s : Site K) :
    kernel_streamCollide.random_6_0 s = kernel_collide.random_6_0 (pulled s) := by
  simp only [
    kernel_streamCollide.random_6_0, kernel_collide.random_6_0, kernel_streamCollide.random_6_pull
    s] <;>
  ring

theorem kernel_streamCollide.random_6_1_pull (s : Site K) :
    kernel_streamCollide.random_6_1 s = kernel_collide.random_6_1 (pulled s) := by
  simp only [
    kernel_streamCollide.random_6_1, kernel_collide.random_6_1, kernel_streamCollide.random_6_pull
    s] <;>
  ring

theorem kernel_streamCollide.random_5_pull (s : Site K) :
    kernel_streamCollide.random_5 s = kernel_collide.random_5 (pulled s) := by
  simp only [
    kernel_streamCollide.random_5, kernel_collide.random_5, pulled_philox_double2 s,
    pulled_block_offset_0 s, pulled_block_offset_1 s, pulled_block_offset_2 s, pulled_seed s,
    pulled_time_step s, pulled_ctr_0 s, pulled_ctr_1 s, pulled_ctr_2 s]

theorem kernel_streamCollide.random_5_0_pull (s : Site K) :
    kernel_streamCollide.random_5_0 s = kernel_collide.random_5_0 (pulled s) := by
  simp only [
    kernel_streamCollide.random_5_0, kernel_collide.random_5_0, kernel_streamCollide.random_5_pull
    s] <;>
  ring

theorem kernel_streamCollide.random_5_1_pull (s : Site K) :
    kernel_streamCollide.random_5_1 s = kernel_collide.random_5_1 (pulled s) := by
  simp only [
    kernel_streamCollide.random_5_1, kernel_collide.random_5_1, kernel_streamCollide.random_5_pull
    s] <;>
  ring

theorem kernel_streamCollide.random_4_pull (s : Site K) :
    kernel_streamCollide.random_4 s = kernel_collide.random_4 (pulled s) := by
  simp only [
    kernel_streamCollide.random_4, kernel_collide.random_4, pulled_philox_double2 s,
    pulled_block_offset_0 s, pulled_block_offset_1 s, pulled_block_offset_2 s, pulled_seed s,
    pulled_time_step s, pulled_ctr_0 s, pulled_ctr_1 s, pulled_ctr_2 s]

theorem kernel_streamCollide.random_4_0_pull (s : Site K) :
    kernel_streamCollide.random_4_0 s = kernel_collide.random_4_0 (pulled s) := by
  simp only [
    kernel_streamCollide.random_4_0, kernel_collide.random_4_0, kernel_streamCollide.random_4_pull
    s] <;>
  ring

theorem kernel_streamCollide.random_4_1_pull (s : Site K) :
    kernel_streamCollide.random_4_1 s = kernel_collide.random_4_1 (pulled s) := by
  simp only [
    kernel_streamCollide.random_4_1, kernel_collide.random_4_1, kernel_streamCollide.random_4_pull
    s] <;>
  ring

theorem kernel_streamCollide.random_3_pull (s : Site K) :
    kernel_streamCollide.random_3 s = kernel_collide.random_3 (pulled s) := by
  simp only [
    kernel_streamCollide.random_3, kernel_collide.random_3, pulled_philox_double2 s,
    pulled_block_offset_0 s, pulled_block_offset_1 s, pulled_block_offset_2 s, pulled_seed s,
    pulled_time_step s, pulled_ctr_0 s, pulled_ctr_1 s, pulled_ctr_2 s]

theorem kernel_streamCollide.random_3_0_pull (s : Site K) :
    kernel_streamCollide.random_3_0 s = kernel_collide.random_3_0 (pulled s) := by
  simp only [
    kernel_streamCollide.random_3_0, kernel_collide.random_3_0, kernel_streamCollide.random_3_pull
    s] <;>
  ring

theorem kernel_streamCollide.random_3_1_pull (s : Site K) :
    kernel_streamCollide.random_3_1 s = kernel_collide.random_3_1 (pulled s) := by
  simp only [
    kernel_streamCollide.random_3_1, kernel_collide.random_3_1, kernel_streamCollide.random_3_pull
    s] <;>
  ring

theorem kernel_streamCollide.random_2_pull (s : Site K) :
    kernel_streamCollide.random_2 s = kernel_collide.random_2 (pulled s) := by
  simp only [
    kernel_streamCollide.random_2, kernel_collide.random_2, pulled_philox_double2 s,
    pulled_block_offset_0 s, pulled_block_offset_1 s, pulled_block_offset_2 s, pulled_seed s,
    pulled_time_step s, pulled_ctr_0 s, pulled_ctr_1 s, pulled_ctr_2 s]

theorem kernel_streamCollide.random_2_0_pull (s : Site K) :
    kernel_streamCollide.random_2_0 s = kernel_collide.random_2_0 (pulled s) := by
  simp only [
    kernel_streamCollide.random_2_0, kernel_collide.random_2_0, kernel_streamCollide.random_2_pull
    s] <;>
  ring

theorem kernel_streamCollide.random_2_1_pull (s : Site K) :
    kernel_streamCollide.random_2_1 s = kernel_collide.random_2_1 (pulled s) := by
  simp only [
    kernel_streamCollide.random_2_1, kernel_collide.random_2_1, kernel_streamCollide.random_2_pull
    s] <;>
  ring

theorem kernel_streamCollide.random_1_pull (s : Site K) :
    kernel_streamCollide.random_1 s = kernel_collide.random_1 (pulled s) := by
  simp only [
    kernel_streamCollide.random_1, kernel_collide.random_1, pulled_philox_double2 s,
    pulled_block_offset_0 s, pulled_block_offset_1 s, pulled_block_offset_2 s, pulled_seed s,
    pulled_time_step s, pulled_ctr_0 s, pulled_ctr_1 s, pulled_ctr_2 s]

theorem kernel_streamCollide.random_1_0_pull (s : Site K) :
    kernel_streamCollide.random_1_0 s = kernel_collide.random_1_0 (pulled s) := by
  simp only [
    kernel_streamCollide.random_1_0, kernel_collide.random_1_0, kernel_streamCollide.random_1_pull
    s] <;>
  ring

theorem kernel_streamCollide.random_1_1_pull (s : Site K) :
    kernel_streamCollide.random_1_1 s = kernel_collide.random_1_1 (pulled s) := by
  simp only [
    kernel_streamCollide.random_1_1, kernel_collide.random_1_1, kernel_streamCollide.random_1_pull
    s] <;>
  ring

theorem kernel_streamCollide.random_0_pull (s : Site K) :
    kernel_streamCollide.random_0 s = kernel_collide.random_0 (pulled s) := by
  simp only [
    kernel_streamCollide.random_0, kernel_collide.random_0, pulled_philox_double2 s,
    pulled_block_offset_0 s, pulled_block_offset_1 s, pulled_block_offset_2 s, pulled_seed s,
    pulled_time_step s, pulled_ctr_0 s, pulled_ctr_1 s, pulled_ctr_2 s]

theorem kernel_streamCollide.random_0_0_pull (s : Site K) :
    kernel_streamCollide.random_0_0 s = kernel_collide.random_0_0 (pulled s) := by
  simp only [
    kernel_streamCollide.random_0_0, kernel_collide.random_0_0, kernel_streamCollide.random_0_pull
    s] <;>
  ring

theorem kernel_streamCollide.random_0_1_pull (s : Site K) :
    kernel_streamCollide.random_0_1 s = kernel_collide.random_0_1 (pulled s) := by
  simp only [
    kernel_streamCollide.random_0_1, kernel_collide.random_0_1, kernel_streamCollide.random_0_pull
    s] <;>
  ring

theorem kernel_streamCollide.xi_0_pull (s : Site K) :
    kernel_streamCollide.xi_0 s = kernel_collide.xi_0 (pulled s) := by
  simp only [
    kernel_streamCollide.xi_0, kernel_collide.xi_0, kernel_collide.xi_259_pulled s,
    kernel_collide.xi_265_pulled s] <;>
  ring

theorem kernel_streamCollide.xi_1_pull (s : Site K) :
    kernel_streamCollide.xi_1 s = kernel_collide.xi_1 (pulled s) := by
  simp only [
    kernel_streamCollide.xi_1, kernel_collide.xi_1, kernel_collide.xi_262_pulled s,
    kernel_collide.xi_272_pulled s] <;>
  ring

theorem kernel_streamCollide.xi_2_pull (s : Site K) :
    kernel_streamCollide.xi_2 s = kernel_collide.xi_2 (pulled s) := by
  simp only [
    kernel_streamCollide.xi_2, kernel_collide.xi_2, kernel_streamCollide.xi_0_pull s,
    kernel_streamCollide.xi_1_pull s, kernel_collide.xi_266_pulled s] <;>
  ring

theorem kernel_streamCollide.xi_3_pull (s : Site K) :
    kernel_streamCollide.xi_3 s = kernel_collide.xi_3 (pulled s) := by
  simp only [
    kernel_streamCollide.xi_3, kernel_collide.xi_3, kernel_collide.xi_264_pulled s,
    kernel_collide.xi_270_pulled s] <;>
  ring

theorem kernel_streamCollide.xi_4_pull (s : Site K) :
    kernel_streamCollide.xi_4 s = kernel_collide.xi_4 (pulled s) := by
  simp only [
    kernel_streamCollide.xi_4, kernel_collide.xi_4, kernel_streamCollide.xi_3_pull s,
    kernel_collide.xi_260_pulled s] <;>
  ring

theorem kernel_streamCollide.xi_5_pull (s : Site K) :
    kernel_streamCollide.xi_5 s = kernel_collide.xi_5 (pulled s) := by
  simp only [
    kernel_streamCollide.xi_5, kernel_collide.xi_5, kernel_streamCollide.xi_4_pull s,
    kernel_collide.xi_269_pulled s] <;>
  ring

theorem kernel_streamCollide.xi_6_pull (s : Site K) :
    kernel_streamCollide.xi_6 s = kernel_collide.xi_6 (pulled s) := by
  simp only [
    kernel_streamCollide.xi_6, kernel_collide.xi_6, kernel_collide.xi_261_pulled s,
    kernel_collide.xi_279_pulled s] <;>
  ring

theorem kernel_streamCollide.xi_7_pull (s : Site K) :
    kernel_streamCollide.xi_7 s = kernel_collide.xi_7 (pulled s) := by
  simp only [
    kernel_streamCollide.xi_7, kernel_collide.xi_7, kernel_streamCollide.xi_6_pull s,
    kernel_collide.xi_275_pulled s] <;>
  ring

theorem kernel_streamCollide.xi_8_pull (s : Site K) :
    kernel_streamCollide.xi_8 s = kernel_collide.xi_8 (pulled s) := by
  simp only [
    kernel_streamCollide.xi_8, kernel_collide.xi_8, kernel_collide.xi_268_pulled s,
    kernel_collide.xi_274_pulled s] <;>
  ring

theorem kernel_streamCollide.xi_9_pull (s : Site K) :
    kernel_streamCollide.xi_9 s = kernel_collide.xi_9 (pulled s) := by
  simp only [
    kernel_streamCollide.xi_9, kernel_collide.xi_9, kernel_collide.xi_278_pulled s,
    kernel_collide.xi_280_pulled s] <;>
  ring

theorem kernel_streamCollide.xi_10_pull (s : Site K) :
    kernel_streamCollide.xi_10 s = kernel_collide.xi_10 (pulled s) := by
  simp only [
    kernel_streamCollide.xi_10, kernel_collide.xi_10, kernel_collide.xi_267_pulled s,
    kernel_collide.xi_276_pulled s] <;>
  ring

theorem kernel_streamCollide.xi_12_pull (s : Site K) :
    kernel_streamCollide.xi_12 s = kernel_collide.xi_12 (pulled s) := by
  simp only [
    kernel_streamCollide.xi_12, kernel_collide.xi_12, kernel_collide.xi_276_pulled s] <;>
  ring

theorem kernel_streamCollide.xi_13_pull (s : Site K) :
    kernel_streamCollide.xi_13 s = kernel_collide.xi_13 (pulled s) := by
  simp only [
    kernel_streamCollide.xi_13, kernel_collide.xi_13, kernel_collide.xi_268_pulled s] <;>
  ring

theorem kernel_streamCollide.xi_14_pull (s : Site K) :
    kernel_streamCollide.xi_14 s = kernel_collide.xi_14 (pulled s) := by
  simp only [
    kernel_streamCollide.xi_14, kernel_collide.xi_14, kernel_streamCollide.xi_12_pull s,
    kernel_streamCollide.xi_13_pull s] <;>
  ring

theorem kernel_streamCollide.xi_15_pull (s : Site K) :
    kernel_streamCollide.xi_15 s = kernel_collide.xi_15 (pulled s) := by
  simp only [
    kernel_streamCollide.xi_15, kernel_collide.xi_15, kernel_collide.xi_275_pulled s] <;>
  ring

theorem kernel_streamCollide.xi_16_pull (s : Site K) :
    kernel_streamCollide.xi_16 s = kernel_collide.xi_16 (pulled s) := by
  simp only [
    kernel_streamCollide.xi_16, kernel_collide.xi_16, kernel_collide.xi_269_pulled s] <;>
  ring

theorem kernel_streamCollide.xi_17_pull (s : Site K) :
    kernel_streamCollide.xi_17 s = kernel_collide.xi_17 (pulled s) := by
  simp only [
    kernel_streamCollide.xi_17, kernel_collide.xi_17, kernel_collide.xi_274_pulled s] <;>
  ring

theorem kernel_streamCollide.xi_18_pull (s : Site K) :
    kernel_streamCollide.xi_18 s = kernel_collide.xi_18 (pulled s) := by
  simp only [
    kernel_streamCollide.xi_18, kernel_collide.xi_18, kernel_streamCollide.xi_16_pull s,
    kernel_streamCollide.xi_17_pull s] <;>
  ring

theorem kernel_streamCollide.xi_19_pull (s : Site K) :
    kernel_streamCollide.xi_19 s = kernel_collide.xi_19 (pulled s) := by
  simp only [
    kernel_streamCollide.xi_19, kernel_collide.xi_19, kernel_streamCollide.xi_15_pull s,
    kernel_streamCollide.xi_18_pull s] <;>
  ring

theorem kernel_streamCollide.xi_20_pull (s : Site K) :
    kernel_streamCollide.xi_20 s = kernel_collide.xi_20 (pulled s) := by
  simp only [
    kernel_streamCollide.xi_20, kernel_collide.xi_20, kernel_collide.xi_265_pulled s] <;>
  ring

theorem kernel_streamCollide.xi_21_pull (s : Site K) :
    kernel_streamCollide.xi_21 s = kernel_collide.xi_21 (pulled s) := by
  simp only [
    kernel_streamCollide.xi_21, kernel_collide.xi_21, kernel_streamCollide.xi_20_pull s,
    kernel_collide.xi_259_pulled s] <;>
  ring

theorem kernel_streamCollide.xi_22_pull (s : Site K) :
    kernel_streamCollide.xi_22 s = kernel_collide.xi_22 (pulled s) := by
  simp only [
    kernel_streamCollide.xi_22, kernel_collide.xi_22, kernel_collide.xi_279_pulled s] <;>
  ring

theorem kernel_streamCollide.xi_23_pull (s : Site K) :
    kernel_streamCollide.xi_23 s = kernel_collide.xi_23 (pulled s) := by
  simp only [
    kernel_streamCollide.xi_23, kernel_collide.xi_23, kernel_collide.xi_278_pulled s] <;>
  ring

theorem kernel_streamCollide.xi_24_pull (s : Site K) :
    kernel_streamCollide.xi_24 s = kernel_collide.xi_24 (pulled s) := by
  simp only [
    kernel_streamCollide.xi_24, kernel_collide.xi_24, kernel_collide.xi_280_pulled s] <;>
  ring

theorem kernel_streamCollide.xi_25_pull (s : Site K) :
    kernel_streamCollide.xi_25 s = kernel_collide.xi_25 (pulled s) := by
  simp only [
    kernel_streamCollide.xi_25, kernel_collide.xi_25, kernel_streamCollide.xi_22_pull s,
    kernel_streamCollide.xi_23_pull s, kernel_streamCollide.xi_24_pull s] <;>
  ring

theorem kernel_streamCollide.xi_26_pull (s : Site K) :
    kernel_streamCollide.xi_26 s = kernel_collide.xi_26 (pulled s) := by
  simp only [
    kernel_streamCollide.xi_26, kernel_collide.xi_26, kernel_collide.xi_262_pulled s] <;>
  ring

theorem kernel_streamCollide.xi_27_pull (s : Site K) :
    kernel_streamCollide.xi_27 s = kernel_collide.xi_27 (pulled s) := by
  simp only [
    kernel_streamCollide.xi_27, kernel_collide.xi_27, kernel_streamCollide.xi_12_pull s,
    kernel_streamCollide.xi_26_pull s] <;>
  ring

theorem kernel_streamCollide.xi_28_pull (s : Site K) :
    kernel_streamCollide.xi_28 s = kernel_collide.xi_28 (pulled s) := by
  simp only [
    kernel_streamCollide.xi_28, kernel_collide.xi_28, kernel_collide.xi_270_pulled s] <;>
  ring

theorem kernel_streamCollide.xi_29_pull (s : Site K) :
    kernel_streamCollide.xi_29 s = kernel_collide.xi_29 (pulled s) := by
  simp only [
    kernel_streamCollide.xi_29, kernel_collide.xi_29, kernel_collide.xi_267_pulled s] <;>
  ring

theorem kernel_streamCollide.xi_30_pull (s : Site K) :
    kernel_streamCollide.xi_30 s = kernel_collide.xi_30 (pulled s) := by
  simp only [
    kernel_streamCollide.xi_30, kernel_collide.xi_30, kernel_streamCollide.xi_24_pull s,
    kernel_streamCollide.xi_28_pull s, kernel_streamCollide.xi_29_pull s,
    kernel_collide.xi_264_pulled s] <;>
  ring

theorem kernel_streamCollide.xi_31_pull (s : Site K) :
    kernel_streamCollide.xi_31 s = kernel_collide.xi_31 (pulled s) := by
  simp only [
    kernel_streamCollide.xi_31, kernel_collide.xi_31, kernel_collide.xi_275_pulled s,
    kernel_collide.xi_276_pulled s] <;>
  ring

theorem kernel_streamCollide.xi_32_pull (s : Site K) :
    kernel_streamCollide.xi_32 s = kernel_collide.xi_32 (pulled s) := by
  simp only [
    kernel_streamCollide.xi_32, kernel_collide.xi_32, kernel_streamCollide.xi_8_pull s,
    kernel_streamCollide.xi_31_pull s, kernel_collide.xi_269_pulled s] <;>
  ring

theorem kernel_streamCollide.xi_33_pull (s : Site K) :
    kernel_streamCollide.xi_33 s = kernel_collide.xi_33 (pulled s) := by
  simp only [
    kernel_streamCollide.xi_33, kernel_collide.xi_33, kernel_streamCollide.xi_16_pull s,
    kernel_streamCollide.xi_21_pull s, kernel_collide.xi_274_pulled s] <;>
  ring

theorem kernel_streamCollide.xi_34_pull (s : Site K) :
    kernel_streamCollide.xi_34 s = kernel_collide.xi_34 (pulled s) := by
  simp only [
    kernel_streamCollide.xi_34, kernel_collide.xi_34, kernel_streamCollide.xi_26_pull s,
    kernel_collide.xi_276_pulled s] <;>
  ring

theorem kernel_streamCollide.xi_35_pull (s : Site K) :
    kernel_streamCollide.xi_35 s = kernel_collide.xi_35 (pulled s) := by
  simp only [
    kernel_streamCollide.xi_35, kernel_collide.xi_35, kernel_streamCollide.xi_15_pull s,
    kernel_collide.xi_272_pulled s] <;>
  ring

theorem kernel_streamCollide.xi_36_pull (s : Site K) :
    kernel_streamCollide.xi_36 s = kernel_collide.xi_36 (pulled s) := by
  simp only [
    kernel_streamCollide.xi_36, kernel_collide.xi_36, kernel_streamCollide.xi_34_pull s,
    kernel_streamCollide.xi_35_pull s] <;>
  ring

theorem kernel_streamCollide.xi_37_pull (s : Site K) :
    kernel_streamCollide.xi_37 s = kernel_collide.xi_37 (pulled s) := by
  simp only [
    kernel_streamCollide.xi_37, kernel_collide.xi_37, kernel_streamCollide.xi_9_pull s,
    kernel_collide.xi_274_pulled s, kernel_collide.xi_279_pulled s] <;>
  ring

theorem kernel_streamCollide.xi_38_pull (s : Site K) :
    kernel_streamCollide.xi_38 s = kernel_collide.xi_38 (pulled s) := by
  simp only [
    kernel_streamCollide.xi_38, kernel_collide.xi_38, kernel_streamCollide.xi_28_pull s,
    kernel_collide.xi_280_pulled s] <;>
  ring

theorem kernel_streamCollide.xi_39_pull (s : Site K) :
    kernel_streamCollide.xi_39 s = kernel_collide.xi_39 (pulled s) := by
  simp only [
    kernel_streamCollide.xi_39, kernel_collide.xi_39, kernel_streamCollide.xi_22_pull s,
    kernel_streamCollide.xi_38_pull s, kernel_collide.xi_264_pulled s] <;>
  ring

theorem kernel_streamCollide.xi_57_pull (s : Site K) :
    kernel_streamCollide.xi_57 s = kernel_collide.xi_57 (pulled s) := by
  simp only [
    kernel_streamCollide.xi_57, kernel_collide.xi_57, kernel_collide.xi_271_pulled s] <;>
  ring

theorem kernel_streamCollide.xi_65_pull (s : Site K) :
    kernel_streamCollide.xi_65 s = kernel_collide.xi_65 (pulled s) := by
  simp only [
    kernel_streamCollide.xi_65, kernel_collide.xi_65, kernel_collide.xi_277_pulled s] <;>
  ring

theorem kernel_streamCollide.xi_69_pull (s : Site K) :
    kernel_streamCollide.xi_69 s = kernel_collide.xi_69 (pulled s) := by
  simp only [
    kernel_streamCollide.xi_69, kernel_collide.xi_69, kernel_collide.xi_273_pulled s] <;>
  ring

theorem kernel_streamCollide.xi_72_pull (s : Site K) :
    kernel_streamCollide.xi_72 s = kernel_collide.xi_72 (pulled s) := by
  simp only [
    kernel_streamCollide.xi_72, kernel_collide.xi_72, kernel_collide.xi_271_pulled s] <;>
  ring

theorem kernel_streamCollide.xi_76_pull (s : Site K) :
    kernel_streamCollide.xi_76 s = kernel_collide.xi_76 (pulled s) := by
  simp only [
    kernel_streamCollide.xi_76, kernel_collide.xi_76, kernel_collide.xi_277_pulled s] <;>
  ring

theorem kernel_streamCollide.xi_80_pull (s : Site K) :
    kernel_streamCollide.xi_80 s = kernel_collide.xi_80 (pulled s) := by
  simp only [
    kernel_streamCollide.xi_80, kernel_collide.xi_80, kernel_collide.xi_271_pulled s] <;>
  ring

theorem kernel_streamCollide.xi_90_pull (s : Site K) :
    kernel_streamCollide.xi_90 s = kernel_collide.xi_90 (pulled s) := by
  simp only [
    kernel_streamCollide.xi_90, kernel_collide.xi_90, kernel_collide.xi_273_pulled s] <;>
  ring

theorem kernel_streamCollide.xi_108_pull (s : Site K) :
    kernel_streamCollide.xi_108 s = kernel_collide.xi_108 (pulled s) := by
  simp only [
    kernel_streamCollide.xi_108, kernel_collide.xi_108, kernel_collide.xi_263_pulled s] <;>
  ring

theorem kernel_streamCollide.xi_109_pull (s : Site K) :
    kernel_streamCollide.xi_109 s = kernel_collide.xi_109 (pulled s) := by
  simp only [
    kernel_streamCollide.xi_109, kernel_collide.xi_109, kernel_streamCollide.xi_108_pull s,
    kernel_collide.xi_261_pulled s, kernel_collide.xi_267_pulled s] <;>
  ring

theorem kernel_streamCollide.xi_110_pull (s : Site K) :
    kernel_streamCollide.xi_110 s = kernel_collide.xi_110 (pulled s) := by
  simp only [
    kernel_streamCollide.xi_110, kernel_collide.xi_110, kernel_streamCollide.xi_109_pull s,
    kernel_collide.xi_260_pulled s, kernel_collide.xi_264_pulled s, kernel_collide.xi_270_pulled
    s, kernel_collide.xi_278_pulled s, kernel_collide.xi_279_pulled s,
    kernel_collide.xi_280_pulled s, pulled_omega_even s] <;>
  ring

theorem kernel_streamCollide.xi_111_pull (s : Site K) :
    kernel_streamCollide.xi_111 s = kernel_collide.xi_111 (pulled s) := by
  simp only [
    kernel_streamCollide.xi_111, kernel_collide.xi_111, kernel_collide.xi_264_pulled s,
    kernel_collide.xi_270_pulled s, kernel_collide.xi_279_pulled s, kernel_collide.xi_280_pulled s] <;>
  ring

theorem kernel_streamCollide.xi_112_pull (s : Site K) :
    kernel_streamCollide.xi_112 s = kernel_collide.xi_112 (pulled s) := by
  simp only [
    kernel_streamCollide.xi_112, kernel_collide.xi_112, kernel_streamCollide.xi_111_pull s,
    kernel_collide.xi_266_pulled s, kernel_collide.xi_268_pulled s] <;>
  ring

theorem kernel_streamCollide.xi_113_pull (s : Site K) :
    kernel_streamCollide.xi_113 s = kernel_collide.xi_113 (pulled s) := by
  simp only [
    kernel_streamCollide.xi_113, kernel_collide.xi_113, kernel_streamCollide.xi_109_pull s,
    kernel_streamCollide.xi_112_pull s, kernel_collide.xi_260_pulled s,
    kernel_collide.xi_262_pulled s, kernel_collide.xi_272_pulled s, kernel_collide.xi_275_pulled
    s, kernel_collide.xi_276_pulled s, kernel_collide.xi_278_pulled s, pulled_omega_even s] <;>
  ring

theorem kernel_streamCollide.xi_116_pull (s : Site K) :
    kernel_streamCollide.xi_116 s = kernel_collide.xi_116 (pulled s) := by
  simp only [
    kernel_streamCollide.xi_116, kernel_collide.xi_116, kernel_collide.xi_264_pulled s] <;>
  ring

theorem kernel_streamCollide.xi_117_pull (s : Site K) :
    kernel_streamCollide.xi_117 s = kernel_collide.xi_117 (pulled s) := by
  simp only [
    kernel_streamCollide.xi_117, kernel_collide.xi_117, kernel_streamCollide.xi_22_pull s,
    kernel_streamCollide.xi_116_pull s] <;>
  ring

theorem kernel_streamCollide.xi_118_pull (s : Site K) :
    kernel_streamCollide.xi_118 s = kernel_collide.xi_118 (pulled s) := by
  simp only [
    kernel_streamCollide.xi_118, kernel_collide.xi_118, kernel_collide.xi_259_pulled s] <;>
  ring

theorem kernel_streamCollide.xi_121_pull (s : Site K) :
    kernel_streamCollide.xi_121 s = kernel_collide.xi_121 (pulled s) := by
  simp only [
    kernel_streamCollide.xi_121, kernel_collide.xi_121, kernel_collide.xi_272_pulled s] <;>
  ring

theorem kernel_streamCollide.xi_122_pull (s : Site K) :
    kernel_streamCollide.xi_122 s = kernel_collide.xi_122 (pulled s) := by
  simp only [
    kernel_streamCollide.xi_122, kernel_collide.xi_122, kernel_streamCollide.xi_19_pull s,
    kernel_streamCollide.xi_27_pull s, kernel_streamCollide.xi_121_pull s] <;>
  ring

theorem kernel_streamCollide.xi_124_pull (s : Site K) :
    kernel_streamCollide.xi_124 s = kernel_collide.xi_124 (pulled s) := by
  simp only [
    kernel_streamCollide.xi_124, kernel_collide.xi_124, kernel_collide.xi_275_pulled s] <;>
  ring

theorem kernel_streamCollide.xi_125_pull (s : Site K) :
    kernel_streamCollide.xi_125 s = kernel_collide.xi_125 (pulled s) := by
  simp only [
    kernel_streamCollide.xi_125, kernel_collide.xi_125, kernel_collide.xi_272_pulled s] <;>
  ring

theorem kernel_streamCollide.xi_126_pull (s : Site K) :
    kernel_streamCollide.xi_126 s = kernel_collide.xi_126 (pulled s) := by
  simp only [
    kernel_streamCollide.xi_126, kernel_collide.xi_126, kernel_collide.xi_262_pulled s,
    kernel_collide.xi_276_pulled s] <;>
  ring

theorem kernel_streamCollide.xi_127_pull (s : Site K) :
    kernel_streamCollide.xi_127 s = kernel_collide.xi_127 (pulled s) := by
  simp only [
    kernel_streamCollide.xi_127, kernel_collide.xi_127, kernel_streamCollide.xi_108_pull s,
    kernel_streamCollide.xi_112_pull s, kernel_streamCollide.xi_124_pull s,
    kernel_streamCollide.xi_125_pull s, kernel_streamCollide.xi_126_pull s,
    kernel_collide.xi_259_pulled s, kernel_collide.xi_260_pulled s, kernel_collide.xi_261_pulled
    s, kernel_collide.xi_265_pulled s, kernel_collide.xi_267_pulled s,
    kernel_collide.xi_269_pulled s, kernel_collide.xi_274_pulled s, kernel_collide.xi_278_pulled
    s, pulled_omega_even s] <;>
  ring

theorem kernel_streamCollide.xi_128_pull (s : Site K) :
    kernel_streamCollide.xi_128 s = kernel_collide.xi_128 (pulled s) := by
  simp only [
    kernel_streamCollide.xi_128, kernel_collide.xi_128, kernel_streamCollide.xi_23_pull s,
    kernel_streamCollide.xi_38_pull s, kernel_streamCollide.xi_116_pull s,
    kernel_collide.xi_260_pulled s, kernel_collide.xi_279_pulled s] <;>
  ring

theorem kernel_streamCollide.xi_130_pull (s : Site K) :
    kernel_streamCollide.xi_130 s = kernel_collide.xi_130 (pulled s) := by
  simp only [
    kernel_streamCollide.xi_130, kernel_collide.xi_130, kernel_streamCollide.xi_129_pull s,
    kernel_streamCollide.xi_128_pull s] <;>
  ring

theorem kernel_streamCollide.xi_135_pull (s : Site K) :
    kernel_streamCollide.xi_135 s = kernel_collide.xi_135 (pulled s) := by
  simp only [
    kernel_streamCollide.xi_135, kernel_collide.xi_135, kernel_streamCollide.random_5_1_pull s] <;>
  ring

theorem kernel_streamCollide.xi_140_pull (s : Site K) :
    kernel_streamCollide.xi_140 s = kernel_collide.xi_140 (pulled s) := by
  simp only [
    kernel_streamCollide.xi_140, kernel_collide.xi_140, kernel_collide.xi_269_pulled s] <;>
  ring

theorem kernel_streamCollide.xi_141_pull (s : Site K) :
    kernel_streamCollide.xi_141 s = kernel_collide.xi_141 (pulled s) := by
  simp only [
    kernel_streamCollide.xi_141, kernel_collide.xi_141, kernel_collide.xi_265_pulled s] <;>
  ring

theorem kernel_streamCollide.xi_142_pull (s : Site K) :
    kernel_streamCollide.xi_142 s = kernel_collide.xi_142 (pulled s) := by
  simp only [
    kernel_streamCollide.xi_142, kernel_collide.xi_142, kernel_collide.xi_259_pulled s,
    kernel_collide.xi_274_pulled s] <;>
  ring

theorem kernel_streamCollide.xi_143_pull (s : Site K) :
    kernel_streamCollide.xi_143 s = kernel_collide.xi_143 (pulled s) := by
  simp only [
    kernel_streamCollide.xi_143, kernel_collide.xi_143, kernel_streamCollide.xi_4_pull s,
    kernel_streamCollide.xi_25_pull s, kernel_streamCollide.xi_140_pull s,
    kernel_streamCollide.xi_141_pull s, kernel_streamCollide.xi_142_pull s] <;>
  ring

theorem kernel_streamCollide.xi_145_pull (s : Site K) :
    kernel_streamCollide.xi_145 s = kernel_collide.xi_145 (pulled s) := by
  simp only [
    kernel_streamCollide.xi_145, kernel_collide.xi_145, kernel_streamCollide.xi_144_pull s,
    kernel_streamCollide.xi_143_pull s] <;>
  ring

theorem kernel_streamCollide.xi_146_pull (s : Site K) :
    kernel_streamCollide.xi_146 s = kernel_collide.xi_146 (pulled s) := by
  simp only [
    kernel_streamCollide.xi_146, kernel_collide.xi_146, kernel_streamCollide.random_3_0_pull s] <;>
  ring

theorem kernel_streamCollide.xi_151_pull (s : Site K) :
    kernel_streamCollide.xi_151 s = kernel_collide.xi_151 (pulled s) := by
  simp only [
    kernel_streamCollide.xi_151, kernel_collide.xi_151, kernel_streamCollide.random_0_1_pull s] <;>
  ring

theorem kernel_streamCollide.xi_168_pull (s : Site K) :
    kernel_streamCollide.xi_168 s = kernel_collide.xi_168 (pulled s) := by
  simp only [
    kernel_streamCollide.xi_168, kernel_collide.xi_168, kernel_streamCollide.xi_13_pull s,
    kernel_streamCollide.xi_34_pull s, kernel_streamCollide.xi_121_pull s,
    kernel_collide.xi_266_pulled s, kernel_collide.xi_275_pulled s] <;>
  ring

theorem kernel_streamCollide.xi_169_pull (s : Site K) :
    kernel_streamCollide.xi_169 s = kernel_collide.xi_169 (pulled s) := by
  simp only [
    kernel_streamCollide.xi_169, kernel_collide.xi_169, kernel_streamCollide.xi_129_pull s,
    kernel_streamCollide.xi_168_pull s] <;>
  ring

theorem kernel_streamCollide.xi_170_pull (s : Site K) :
    kernel_streamCollide.xi_170 s = kernel_collide.xi_170 (pulled s) := by
  simp only [
    kernel_streamCollide.xi_170, kernel_collide.xi_170, kernel_streamCollide.random_4_1_pull s] <;>
  ring

theorem kernel_streamCollide.xi_172_pull (s : Site K) :
    kernel_streamCollide.xi_172 s = kernel_collide.xi_172 (pulled s) := by
  simp only [
    kernel_streamCollide.xi_172, kernel_collide.xi_172, kernel_streamCollide.xi_14_pull s,
    kernel_streamCollide.xi_35_pull s, kernel_streamCollide.xi_140_pull s,
    kernel_streamCollide.xi_141_pull s, kernel_streamCollide.xi_142_pull s,
    kernel_collide.xi_262_pulled s, kernel_collide.xi_266_pulled s] <;>
  ring

theorem kernel_streamCollide.xi_173_pull (s : Site K) :
    kernel_streamCollide.xi_173 s = kernel_collide.xi_173 (pulled s) := by
  simp only [
    kernel_streamCollide.xi_173, kernel_collide.xi_173, kernel_streamCollide.xi_144_pull s,
    kernel_streamCollide.xi_172_pull s] <;>
  ring

theorem kernel_streamCollide.xi_174_pull (s : Site K) :
    kernel_streamCollide.xi_174 s = kernel_collide.xi_174 (pulled s) := by
  simp only [
    kernel_streamCollide.xi_174, kernel_collide.xi_174, kernel_streamCollide.random_4_0_pull s] <;>
  ring

theorem kernel_streamCollide.xi_179_pull (s : Site K) :
    kernel_streamCollide.xi_179 s = kernel_collide.xi_179 (pulled s) := by
  simp only [
    kernel_streamCollide.xi_179, kernel_collide.xi_179, kernel_collide.xi_270_pulled s,
    kernel_collide.xi_280_pulled s] <;>
  ring

theorem kernel_streamCollide.xi_180_pull (s : Site K) :
    kernel_streamCollide.xi_180 s = kernel_collide.xi_180 (pulled s) := by
  simp only [
    kernel_streamCollide.xi_180, kernel_collide.xi_180, kernel_streamCollide.xi_29_pull s,
    kernel_streamCollide.xi_117_pull s, kernel_streamCollide.xi_179_pull s,
    kernel_collide.xi_261_pulled s] <;>
  ring

theorem kernel_streamCollide.xi_181_pull (s : Site K) :
    kernel_streamCollide.xi_181 s = kernel_collide.xi_181 (pulled s) := by
  simp only [
    kernel_streamCollide.xi_181, kernel_collide.xi_181, kernel_streamCollide.xi_129_pull s,
    kernel_streamCollide.xi_180_pull s] <;>
  ring

theorem kernel_streamCollide.xi_184_pull (s : Site K) :
    kernel_streamCollide.xi_184 s = kernel_collide.xi_184 (pulled s) := by
  simp only [
    kernel_streamCollide.xi_184, kernel_collide.xi_184, kernel_streamCollide.random_5_0_pull s] <;>
  ring

theorem kernel_streamCollide.xi_186_pull (s : Site K) :
    kernel_streamCollide.xi_186 s = kernel_collide.xi_186 (pulled s) := by
  simp only [
    kernel_streamCollide.xi_186, kernel_collide.xi_186, kernel_streamCollide.xi_6_pull s,
    kernel_streamCollide.xi_30_pull s, kernel_streamCollide.xi_124_pull s,
    kernel_streamCollide.xi_125_pull s, kernel_streamCollide.xi_126_pull s] <;>
  ring

theorem kernel_streamCollide.xi_187_pull (s : Site K) :
    kernel_streamCollide.xi_187 s = kernel_collide.xi_187 (pulled s) := by
  simp only [
    kernel_streamCollide.xi_187, kernel_collide.xi_187, kernel_streamCollide.xi_144_pull s,
    kernel_streamCollide.xi_186_pull s] <;>
  ring

theorem kernel_streamCollide.xi_188_pull (s : Site K) :
    kernel_streamCollide.xi_188 s = kernel_collide.xi_188 (pulled s) := by
  simp only [
    kernel_streamCollide.xi_188, kernel_collide.xi_188, kernel_streamCollide.random_3_1_pull s] <;>
  ring

theorem kernel_streamCollide.xi_195_pull (s : Site K) :
    kernel_streamCollide.xi_195 s = kernel_collide.xi_195 (pulled s) := by
  simp only [
    kernel_streamCollide.xi_195, kernel_collide.xi_195, kernel_streamCollide.xi_127_pull s] <;>
  ring

theorem kernel_streamCollide.xi_216_pull (s : Site K) :
    kernel_streamCollide.xi_216 s = kernel_collide.xi_216 (pulled s) := by
  simp only [
    kernel_streamCollide.xi_216, kernel_collide.xi_216, kernel_streamCollide.xi_113_pull s] <;>
  ring

theorem kernel_streamCollide.xi_218_pull (s : Site K) :
    kernel_streamCollide.xi_218 s = kernel_collide.xi_218 (pulled s) := by
  simp only [
    kernel_streamCollide.xi_218, kernel_collide.xi_218, kernel_streamCollide.xi_110_pull s] <;>
  ring

theorem kernel_streamCollide.xi_223_pull (s : Site K) :
    kernel_streamCollide.xi_223 s = kernel_collide.xi_223 (pulled s) := by
  simp only [
    kernel_streamCollide.xi_223, kernel_collide.xi_223, kernel_streamCollide.xi_222_pull s,
    kernel_streamCollide.xi_186_pull s] <;>
  ring

theorem kernel_streamCollide.xi_225_pull (s : Site K) :
    kernel_streamCollide.xi_225 s = kernel_collide.xi_225 (pulled s) := by
  simp only [
    kernel_streamCollide.xi_225, kernel_collide.xi_225, kernel_streamCollide.xi_224_pull s,
    kernel_streamCollide.xi_180_pull s] <;>
  ring

theorem kernel_streamCollide.xi_234_pull (s : Site K) :
    kernel_streamCollide.xi_234 s = kernel_collide.xi_234 (pulled s) := by
  simp only [
    kernel_streamCollide.xi_234, kernel_collide.xi_234, kernel_streamCollide.xi_222_pull s,
    kernel_streamCollide.xi_143_pull s] <;>
  ring

theorem kernel_streamCollide.xi_235_pull (s : Site K) :
    kernel_streamCollide.xi_235 s = kernel_collide.xi_235 (pulled s) := by
  simp only [
    kernel_streamCollide.xi_235, kernel_collide.xi_235, kernel_streamCollide.xi_224_pull s,
    kernel_streamCollide.xi_128_pull s] <;>
  ring

theorem kernel_streamCollide.xi_243_pull (s : Site K) :
    kernel_streamCollide.xi_243 s = kernel_collide.xi_243 (pulled s) := by
  simp only [
    kernel_streamCollide.xi_243, kernel_collide.xi_243, kernel_streamCollide.xi_113_pull s] <;>
  ring

theorem kernel_streamCollide.xi_249_pull (s : Site K) :
    kernel_streamCollide.xi_249 s = kernel_collide.xi_249 (pulled s) := by
  simp only [
    kernel_streamCollide.xi_249, kernel_collide.xi_249, kernel_streamCollide.xi_224_pull s,
    kernel_streamCollide.xi_168_pull s] <;>
  ring

theorem kernel_streamCollide.xi_250_pull (s : Site K) :
    kernel_streamCollide.xi_250 s = kernel_collide.xi_250 (pulled s) := by
  simp only [
    kernel_streamCollide.xi_250, kernel_collide.xi_250, kernel_streamCollide.xi_222_pull s,
    kernel_streamCollide.xi_172_pull s] <;>
  ring

theorem kernel_streamCollide.vel0Term_pull (s : Site K) :
    kernel_streamCollide.vel0Term s = kernel_collide.vel0Term (pulled s) := by
  simp only [
    kernel_streamCollide.vel0Term, kernel_collide.vel0Term, kernel_streamCollide.xi_2_pull s] <;>
  ring

theorem kernel_streamCollide.vel1Term_pull (s : Site K) :
    kernel_streamCollide.vel1Term s = kernel_collide.vel1Term (pulled s) := by
  simp only [
    kernel_streamCollide.vel1Term, kernel_collide.vel1Term, kernel_streamCollide.xi_5_pull s] <;>
  ring

theorem kernel_streamCollide.vel2Term_pull (s : Site K) :
    kernel_streamCollide.vel2Term s = kernel_collide.vel2Term (pulled s) := by
  simp only [
    kernel_streamCollide.vel2Term, kernel_collide.vel2Term, kernel_streamCollide.xi_7_pull s] <;>
  ring

theorem kernel_streamCollide.rho_pull (s : Site K) :
    kernel_streamCollide.rho s = kernel_collide.rho (pulled s) := by
  simp only [
    kernel_streamCollide.rho, kernel_collide.rho, kernel_streamCollide.xi_8_pull s,
    kernel_streamCollide.xi_9_pull s, kernel_streamCollide.xi_10_pull s,
    kernel_streamCollide.vel0Term_pull s, kernel_streamCollide.vel1Term_pull s,
    kernel_streamCollide.vel2Term_pull s, kernel_collide.xi_263_pulled s] <;>
  ring

theorem kernel_streamCollide.xi_11_pull (s : Site K) :
    kernel_streamCollide.xi_11 s = kernel_collide.xi_11 (pulled s) := by
  simp only [
    kernel_streamCollide.xi_11, kernel_collide.xi_11, kernel_streamCollide.rho_pull s] <;>
  ring

theorem kernel_streamCollide.xi_101_pull (s : Site K) :
    kernel_streamCollide.xi_101 s = kernel_collide.xi_101 (pulled s) := by
  simp only [
    kernel_streamCollide.xi_101, kernel_collide.xi_101, kernel_streamCollide.rho_pull s, pulled_kT
    s] <;>
  ring

theorem kernel_streamCollide.xi_102_pull (s : Site K) :
    kernel_streamCollide.xi_102 s = kernel_collide.xi_102 (pulled s) := by
  simp only [
    kernel_streamCollide.xi_102, kernel_collide.xi_102, kernel_streamCollide.xi_101_pull s,
    pulled_sqrt s, pulled_omega_even s] <;>
  ring

theorem kernel_streamCollide.xi_103_pull (s : Site K) :
    kernel_streamCollide.xi_103 s = kernel_collide.xi_103 (pulled s) := by
  simp only [
    kernel_streamCollide.xi_103, kernel_collide.xi_103, kernel_streamCollide.random_6_0_pull s,
    kernel_streamCollide.xi_102_pull s] <;>
  ring

theorem kernel_streamCollide.xi_104_pull (s : Site K) :
    kernel_streamCollide.xi_104 s = kernel_collide.xi_104 (pulled s) := by
  simp only [
    kernel_streamCollide.xi_104, kernel_collide.xi_104, kernel_streamCollide.random_7_0_pull s,
    kernel_streamCollide.xi_102_pull s] <;>
  ring

theorem kernel_streamCollide.xi_106_pull (s : Site K) :
    kernel_streamCollide.xi_106 s = kernel_collide.xi_106 (pulled s) := by
  simp only [
    kernel_streamCollide.xi_106, kernel_collide.xi_106, kernel_streamCollide.xi_40_pull s,
    kernel_streamCollide.xi_105_pull s, kernel_streamCollide.random_2_1_pull s,
    kernel_streamCollide.xi_101_pull s, pulled_sqrt s] <;>
  ring

theorem kernel_streamCollide.xi_107_pull (s : Site K) :
    kernel_streamCollide.xi_107 s = kernel_collide.xi_107 (pulled s) := by
  simp only [
    kernel_streamCollide.xi_107, kernel_collide.xi_107, kernel_streamCollide.random_6_1_pull s,
    kernel_streamCollide.xi_102_pull s] <;>
  ring

theorem kernel_streamCollide.xi_136_pull (s : Site K) :
    kernel_streamCollide.xi_136 s = kernel_collide.xi_136 (pulled s) := by
  simp only [
    kernel_streamCollide.xi_136, kernel_collide.xi_136, kernel_streamCollide.xi_101_pull s,
    pulled_sqrt s, pulled_omega_odd s] <;>
  ring

theorem kernel_streamCollide.xi_137_pull (s : Site K) :
    kernel_streamCollide.xi_137 s = kernel_collide.xi_137 (pulled s) := by
  simp only [
    kernel_streamCollide.xi_137, kernel_collide.xi_137, kernel_streamCollide.xi_136_pull s] <;>
  ring

theorem kernel_streamCollide.xi_138_pull (s : Site K) :
    kernel_streamCollide.xi_138 s = kernel_collide.xi_138 (pulled s) := by
  simp only [
    kernel_streamCollide.xi_138, kernel_collide.xi_138, kernel_streamCollide.xi_137_pull s] <;>
  ring

theorem kernel_streamCollide.xi_139_pull (s : Site K) :
    kernel_streamCollide.xi_139 s = kernel_collide.xi_139 (pulled s) := by
  simp only [
    kernel_streamCollide.xi_139, kernel_collide.xi_139, kernel_streamCollide.xi_135_pull s,
    kernel_streamCollide.xi_138_pull s] <;>
  ring

theorem kernel_streamCollide.xi_147_pull (s : Site K) :
    kernel_streamCollide.xi_147 s = kernel_collide.xi_147 (pulled s) := by
  simp only [
    kernel_streamCollide.xi_147, kernel_collide.xi_147, kernel_streamCollide.xi_105_pull s,
    kernel_streamCollide.xi_136_pull s] <;>
  ring

theorem kernel_streamCollide.xi_148_pull (s : Site K) :
    kernel_streamCollide.xi_148 s = kernel_collide.xi_148 (pulled s) := by
  simp only [
    kernel_streamCollide.xi_148, kernel_collide.xi_148, kernel_streamCollide.xi_147_pull s] <;>
  ring

theorem kernel_streamCollide.xi_149_pull (s : Site K) :
    kernel_streamCollide.xi_149 s = kernel_collide.xi_149 (pulled s) := by
  simp only [
    kernel_streamCollide.xi_149, kernel_collide.xi_149, kernel_streamCollide.xi_146_pull s,
    kernel_streamCollide.xi_148_pull s] <;>
  ring

theorem kernel_streamCollide.xi_150_pull (s : Site K) :
    kernel_streamCollide.xi_150 s = kernel_collide.xi_150 (pulled s) := by
  simp only [
    kernel_streamCollide.xi_150, kernel_collide.xi_150, kernel_streamCollide.xi_145_pull s,
    kernel_streamCollide.xi_149_pull s] <;>
  ring

theorem kernel_streamCollide.xi_152_pull (s : Site K) :
    kernel_streamCollide.xi_152 s = kernel_collide.xi_152 (pulled s) := by
  simp only [
    kernel_streamCollide.xi_152, kernel_collide.xi_152, kernel_streamCollide.xi_51_pull s,
    kernel_streamCollide.xi_101_pull s, pulled_sqrt s] <;>
  ring

theorem kernel_streamCollide.xi_153_pull (s : Site K) :
    kernel_streamCollide.xi_153 s = kernel_collide.xi_153 (pulled s) := by
  simp only [
    kernel_streamCollide.xi_153, kernel_collide.xi_153, kernel_streamCollide.xi_152_pull s] <;>
  ring

theorem kernel_streamCollide.xi_154_pull (s : Site K) :
    kernel_streamCollide.xi_154 s = kernel_collide.xi_154 (pulled s) := by
  simp only [
    kernel_streamCollide.xi_154, kernel_collide.xi_154, kernel_streamCollide.xi_151_pull s,
    kernel_streamCollide.xi_153_pull s] <;>
  ring

theorem kernel_streamCollide.xi_158_pull (s : Site K) :
    kernel_streamCollide.xi_158 s = kernel_collide.xi_158 (pulled s) := by
  simp only [
    kernel_streamCollide.xi_158, kernel_collide.xi_158, kernel_streamCollide.xi_127_pull s,
    kernel_streamCollide.xi_103_pull s] <;>
  ring

theorem kernel_streamCollide.xi_160_pull (s : Site K) :
    kernel_streamCollide.xi_160 s = kernel_collide.xi_160 (pulled s) := by
  simp only [
    kernel_streamCollide.xi_160, kernel_collide.xi_160, kernel_streamCollide.random_0_0_pull s,
    kernel_streamCollide.xi_152_pull s] <;>
  ring

theorem kernel_streamCollide.xi_164_pull (s : Site K) :
    kernel_streamCollide.xi_164 s = kernel_collide.xi_164 (pulled s) := by
  simp only [
    kernel_streamCollide.xi_164, kernel_collide.xi_164, kernel_streamCollide.xi_145_pull s,
    kernel_streamCollide.xi_149_pull s] <;>
  ring

theorem kernel_streamCollide.xi_171_pull (s : Site K) :
    kernel_streamCollide.xi_171 s = kernel_collide.xi_171 (pulled s) := by
  simp only [
    kernel_streamCollide.xi_171, kernel_collide.xi_171, kernel_streamCollide.xi_170_pull s,
    kernel_streamCollide.xi_138_pull s] <;>
  ring

theorem kernel_streamCollide.xi_175_pull (s : Site K) :
    kernel_streamCollide.xi_175 s = kernel_collide.xi_175 (pulled s) := by
  simp only [
    kernel_streamCollide.xi_175, kernel_collide.xi_175, kernel_streamCollide.xi_174_pull s,
    kernel_streamCollide.xi_148_pull s] <;>
  ring

theorem kernel_streamCollide.xi_176_pull (s : Site K) :
    kernel_streamCollide.xi_176 s = kernel_collide.xi_176 (pulled s) := by
  simp only [
    kernel_streamCollide.xi_176, kernel_collide.xi_176, kernel_streamCollide.xi_173_pull s,
    kernel_streamCollide.xi_175_pull s] <;>
  ring

theorem kernel_streamCollide.xi_178_pull (s : Site K) :
    kernel_streamCollide.xi_178 s = kernel_collide.xi_178 (pulled s) := by
  simp only [
    kernel_streamCollide.xi_178, kernel_collide.xi_178, kernel_streamCollide.xi_173_pull s,
    kernel_streamCollide.xi_175_pull s] <;>
  ring

theorem kernel_streamCollide.xi_185_pull (s : Site K) :
    kernel_streamCollide.xi_185 s = kernel_collide.xi_185 (pulled s) := by
  simp only [
    kernel_streamCollide.xi_185, kernel_collide.xi_185, kernel_streamCollide.xi_184_pull s,
    kernel_streamCollide.xi_138_pull s] <;>
  ring

theorem kernel_streamCollide.xi_189_pull (s : Site K) :
    kernel_streamCollide.xi_189 s = kernel_collide.xi_189 (pulled s) := by
  simp only [
    kernel_streamCollide.xi_189, kernel_collide.xi_189, kernel_streamCollide.xi_188_pull s,
    kernel_streamCollide.xi_148_pull s] <;>
  ring

theorem kernel_streamCollide.xi_190_pull (s : Site K) :
    kernel_streamCollide.xi_190 s = kernel_collide.xi_190 (pulled s) := by
  simp only [
    kernel_streamCollide.xi_190, kernel_collide.xi_190, kernel_streamCollide.xi_187_pull s,
    kernel_streamCollide.xi_189_pull s] <;>
  ring

theorem kernel_streamCollide.xi_192_pull (s : Site K) :
    kernel_streamCollide.xi_192 s = kernel_collide.xi_192 (pulled s) := by
  simp only [
    kernel_streamCollide.xi_192, kernel_collide.xi_192, kernel_streamCollide.xi_187_pull s,
    kernel_streamCollide.xi_189_pull s] <;>
  ring

theorem kernel_streamCollide.xi_193_pull (s : Site K) :
    kernel_streamCollide.xi_193 s = kernel_collide.xi_193 (pulled s) := by
  simp only [
    kernel_streamCollide.xi_193, kernel_collide.xi_193, kernel_streamCollide.xi_151_pull s,
    kernel_streamCollide.xi_152_pull s] <;>
  ring

theorem kernel_streamCollide.xi_196_pull (s : Site K) :
    kernel_streamCollide.xi_196 s = kernel_collide.xi_196 (pulled s) := by
  simp only [
    kernel_streamCollide.xi_196, kernel_collide.xi_196, kernel_streamCollide.xi_103_pull s] <;>
  ring

theorem kernel_streamCollide.xi_206_pull (s : Site K) :
    kernel_streamCollide.xi_206 s = kernel_collide.xi_206 (pulled s) := by
  simp only [
    kernel_streamCollide.xi_206, kernel_collide.xi_206, kernel_streamCollide.random_1_0_pull s,
    kernel_streamCollide.xi_153_pull s] <;>
  ring

theorem kernel_streamCollide.xi_215_pull (s : Site K) :
    kernel_streamCollide.xi_215 s = kernel_collide.xi_215 (pulled s) := by
  simp only [
    kernel_streamCollide.xi_215, kernel_collide.xi_215, kernel_streamCollide.random_2_0_pull s,
    kernel_streamCollide.xi_153_pull s] <;>
  ring

theorem kernel_streamCollide.xi_219_pull (s : Site K) :
    kernel_streamCollide.xi_219 s = kernel_collide.xi_219 (pulled s) := by
  simp only [
    kernel_streamCollide.xi_219, kernel_collide.xi_219, kernel_streamCollide.xi_107_pull s] <;>
  ring

theorem kernel_streamCollide.xi_220_pull (s : Site K) :
    kernel_streamCollide.xi_220 s = kernel_collide.xi_220 (pulled s) := by
  simp only [
    kernel_streamCollide.xi_220, kernel_collide.xi_220, kernel_streamCollide.xi_104_pull s] <;>
  ring

theorem kernel_streamCollide.xi_226_pull (s : Site K) :
    kernel_streamCollide.xi_226 s = kernel_collide.xi_226 (pulled s) := by
  simp only [
    kernel_streamCollide.xi_226, kernel_collide.xi_226, kernel_streamCollide.xi_147_pull s] <;>
  ring

theorem kernel_streamCollide.xi_227_pull (s : Site K) :
    kernel_streamCollide.xi_227 s = kernel_collide.xi_227 (pulled s) := by
  simp only [
    kernel_streamCollide.xi_227, kernel_collide.xi_227, kernel_streamCollide.xi_188_pull s,
    kernel_streamCollide.xi_226_pull s] <;>
  ring

theorem kernel_streamCollide.xi_228_pull (s : Site K) :
    kernel_streamCollide.xi_228 s = kernel_collide.xi_228 (pulled s) := by
  simp only [
    kernel_streamCollide.xi_228, kernel_collide.xi_228, kernel_streamCollide.xi_137_pull s] <;>
  ring

theorem kernel_streamCollide.xi_229_pull (s : Site K) :
    kernel_streamCollide.xi_229 s = kernel_collide.xi_229 (pulled s) := by
  simp only [
    kernel_streamCollide.xi_229, kernel_collide.xi_229, kernel_streamCollide.xi_184_pull s,
    kernel_streamCollide.xi_228_pull s] <;>
  ring

theorem kernel_streamCollide.xi_231_pull (s : Site K) :
    kernel_streamCollide.xi_231 s = kernel_collide.xi_231 (pulled s) := by
  simp only [
    kernel_streamCollide.xi_231, kernel_collide.xi_231, kernel_streamCollide.xi_127_pull s,
    kernel_streamCollide.xi_103_pull s] <;>
  ring

theorem kernel_streamCollide.xi_236_pull (s : Site K) :
    kernel_streamCollide.xi_236 s = kernel_collide.xi_236 (pulled s) := by
  simp only [
    kernel_streamCollide.xi_236, kernel_collide.xi_236, kernel_streamCollide.xi_146_pull s,
    kernel_streamCollide.xi_226_pull s] <;>
  ring

theorem kernel_streamCollide.xi_237_pull (s : Site K) :
    kernel_streamCollide.xi_237 s = kernel_collide.xi_237 (pulled s) := by
  simp only [
    kernel_streamCollide.xi_237, kernel_collide.xi_237, kernel_streamCollide.xi_135_pull s,
    kernel_streamCollide.xi_228_pull s] <;>
  ring

theorem kernel_streamCollide.xi_241_pull (s : Site K) :
    kernel_streamCollide.xi_241 s = kernel_collide.xi_241 (pulled s) := by
  simp only [
    kernel_streamCollide.xi_241, kernel_collide.xi_241, kernel_streamCollide.xi_193_pull s] <;>
  ring

theorem kernel_streamCollide.xi_244_pull (s : Site K) :
    kernel_streamCollide.xi_244 s = kernel_collide.xi_244 (pulled s) := by
  simp only [
    kernel_streamCollide.xi_244, kernel_collide.xi_244, kernel_streamCollide.xi_107_pull s] <;>
  ring

theorem kernel_streamCollide.xi_246_pull (s : Site K) :
    kernel_streamCollide.xi_246 s = kernel_collide.xi_246 (pulled s) := by
  simp only [
    kernel_streamCollide.xi_246, kernel_collide.xi_246, kernel_streamCollide.random_1_1_pull s,
    kernel_streamCollide.xi_153_pull s] <;>
  ring

theorem kernel_streamCollide.xi_251_pull (s : Site K) :
    kernel_streamCollide.xi_251 s = kernel_collide.xi_251 (pulled s) := by
  simp only [
    kernel_streamCollide.xi_251, kernel_collide.xi_251, kernel_streamCollide.xi_170_pull s,
    kernel_streamCollide.xi_228_pull s] <;>
  ring

theorem kernel_streamCollide.xi_252_pull (s : Site K) :
    kernel_streamCollide.xi_252 s = kernel_collide.xi_252 (pulled s) := by
  simp only [
    kernel_streamCollide.xi_252, kernel_collide.xi_252, kernel_streamCollide.xi_174_pull s,
    kernel_streamCollide.xi_226_pull s] <;>
  ring

theorem kernel_streamCollide.u_0_pull (s : Site K) :
    kernel_streamCollide.u_0 s = kernel_collide.u_0 (pulled s) := by
  simp only [
    kernel_streamCollide.u_0, kernel_collide.u_0, kernel_streamCollide.xi_14_pull s,
    kernel_streamCollide.xi_19_pull s, kernel_streamCollide.vel0Term_pull s,
    kernel_streamCollide.xi_11_pull s] <;>
  ring

theorem kernel_streamCollide.xi_41_pull (s : Site K) :
    kernel_streamCollide.xi_41 s = kernel_collide.xi_41 (pulled s) := by
  simp only [
    kernel_streamCollide.xi_41, kernel_collide.xi_41, kernel_streamCollide.u_0_pull s,
    kernel_collide.xi_277_pulled s] <;>
  ring

theorem kernel_streamCollide.xi_42_pull (s : Site K) :
    kernel_streamCollide.xi_42 s = kernel_collide.xi_42 (pulled s) := by
  simp only [
    kernel_streamCollide.xi_42, kernel_collide.xi_42, kernel_streamCollide.xi_41_pull s] <;>
  ring

theorem kernel_streamCollide.xi_48_pull (s : Site K) :
    kernel_streamCollide.xi_48 s = kernel_collide.xi_48 (pulled s) := by
  simp only [
    kernel_streamCollide.xi_48, kernel_collide.xi_48, kernel_streamCollide.xi_42_pull s] <;>
  ring

theorem kernel_streamCollide.xi_114_pull (s : Site K) :
    kernel_streamCollide.xi_114 s = kernel_collide.xi_114 (pulled s) := by
  simp only [
    kernel_streamCollide.xi_114, kernel_collide.xi_114, kernel_streamCollide.rho_pull s,
    kernel_streamCollide.u_0_pull s] <;>
  ring

theorem kernel_streamCollide.xi_165_pull (s : Site K) :
    kernel_streamCollide.xi_165 s = kernel_collide.xi_165 (pulled s) := by
  simp only [
    kernel_streamCollide.xi_165, kernel_collide.xi_165, kernel_streamCollide.rho_pull s,
    kernel_streamCollide.u_0_pull s] <;>
  ring

theorem kernel_streamCollide.xi_166_pull (s : Site K) :
    kernel_streamCollide.xi_166 s = kernel_collide.xi_166 (pulled s) := by
  simp only [
    kernel_streamCollide.xi_166, kernel_collide.xi_166, kernel_streamCollide.xi_32_pull s,
    kernel_streamCollide.vel0Term_pull s, kernel_streamCollide.xi_165_pull s] <;>
  ring

theorem kernel_streamCollide.xi_167_pull (s : Site K) :
    kernel_streamCollide.xi_167 s = kernel_collide.xi_167 (pulled s) := by
  simp only [
    kernel_streamCollide.xi_167, kernel_collide.xi_167, kernel_streamCollide.xi_133_pull s,
    kernel_streamCollide.xi_166_pull s] <;>
  ring

theorem kernel_streamCollide.xi_202_pull (s : Site K) :
    kernel_streamCollide.xi_202 s = kernel_collide.xi_202 (pulled s) := by
  simp only [
    kernel_streamCollide.xi_202, kernel_collide.xi_202, kernel_streamCollide.xi_197_pull s,
    kernel_streamCollide.xi_166_pull s] <;>
  ring

theorem kernel_streamCollide.u_1_pull (s : Site K) :
    kernel_streamCollide.u_1 s = kernel_collide.u_1 (pulled s) := by
  simp only [
    kernel_streamCollide.u_1, kernel_collide.u_1, kernel_streamCollide.xi_17_pull s,
    kernel_streamCollide.xi_21_pull s, kernel_streamCollide.xi_25_pull s,
    kernel_streamCollide.vel1Term_pull s, kernel_streamCollide.xi_11_pull s] <;>
  ring

theorem kernel_streamCollide.xi_43_pull (s : Site K) :
    kernel_streamCollide.xi_43 s = kernel_collide.xi_43 (pulled s) := by
  simp only [
    kernel_streamCollide.xi_43, kernel_collide.xi_43, kernel_streamCollide.u_1_pull s,
    kernel_collide.xi_271_pulled s] <;>
  ring

theorem kernel_streamCollide.xi_44_pull (s : Site K) :
    kernel_streamCollide.xi_44 s = kernel_collide.xi_44 (pulled s) := by
  simp only [
    kernel_streamCollide.xi_44, kernel_collide.xi_44, kernel_streamCollide.xi_43_pull s] <;>
  ring

theorem kernel_streamCollide.xi_49_pull (s : Site K) :
    kernel_streamCollide.xi_49 s = kernel_collide.xi_49 (pulled s) := by
  simp only [
    kernel_streamCollide.xi_49, kernel_collide.xi_49, kernel_streamCollide.xi_44_pull s] <;>
  ring

theorem kernel_streamCollide.xi_71_pull (s : Site K) :
    kernel_streamCollide.xi_71 s = kernel_collide.xi_71 (pulled s) := by
  simp only [
    kernel_streamCollide.xi_71, kernel_collide.xi_71, kernel_streamCollide.u_1_pull s] <;>
  ring

theorem kernel_streamCollide.xi_74_pull (s : Site K) :
    kernel_streamCollide.xi_74 s = kernel_collide.xi_74 (pulled s) := by
  simp only [
    kernel_streamCollide.xi_74, kernel_collide.xi_74, kernel_streamCollide.xi_73_pull s,
    kernel_streamCollide.xi_72_pull s, kernel_streamCollide.u_0_pull s,
    kernel_streamCollide.xi_71_pull s, kernel_collide.xi_277_pulled s] <;>
  ring

theorem kernel_streamCollide.xi_75_pull (s : Site K) :
    kernel_streamCollide.xi_75 s = kernel_collide.xi_75 (pulled s) := by
  simp only [
    kernel_streamCollide.xi_75, kernel_collide.xi_75, kernel_streamCollide.xi_74_pull s] <;>
  ring

theorem kernel_streamCollide.xi_119_pull (s : Site K) :
    kernel_streamCollide.xi_119 s = kernel_collide.xi_119 (pulled s) := by
  simp only [
    kernel_streamCollide.xi_119, kernel_collide.xi_119, kernel_streamCollide.rho_pull s,
    kernel_streamCollide.u_1_pull s] <;>
  ring

theorem kernel_streamCollide.xi_120_pull (s : Site K) :
    kernel_streamCollide.xi_120 s = kernel_collide.xi_120 (pulled s) := by
  simp only [
    kernel_streamCollide.xi_120, kernel_collide.xi_120, kernel_streamCollide.xi_20_pull s,
    kernel_streamCollide.xi_118_pull s, kernel_streamCollide.xi_119_pull s] <;>
  ring

theorem kernel_streamCollide.xi_131_pull (s : Site K) :
    kernel_streamCollide.xi_131 s = kernel_collide.xi_131 (pulled s) := by
  simp only [
    kernel_streamCollide.xi_131, kernel_collide.xi_131, kernel_streamCollide.rho_pull s,
    kernel_streamCollide.u_1_pull s] <;>
  ring

theorem kernel_streamCollide.xi_132_pull (s : Site K) :
    kernel_streamCollide.xi_132 s = kernel_collide.xi_132 (pulled s) := by
  simp only [
    kernel_streamCollide.xi_132, kernel_collide.xi_132, kernel_streamCollide.xi_37_pull s,
    kernel_streamCollide.xi_118_pull s, kernel_streamCollide.vel1Term_pull s,
    kernel_streamCollide.xi_131_pull s, kernel_collide.xi_265_pulled s] <;>
  ring

theorem kernel_streamCollide.xi_134_pull (s : Site K) :
    kernel_streamCollide.xi_134 s = kernel_collide.xi_134 (pulled s) := by
  simp only [
    kernel_streamCollide.xi_134, kernel_collide.xi_134, kernel_streamCollide.xi_133_pull s,
    kernel_streamCollide.xi_132_pull s] <;>
  ring

theorem kernel_streamCollide.xi_198_pull (s : Site K) :
    kernel_streamCollide.xi_198 s = kernel_collide.xi_198 (pulled s) := by
  simp only [
    kernel_streamCollide.xi_198, kernel_collide.xi_198, kernel_streamCollide.xi_197_pull s,
    kernel_streamCollide.xi_132_pull s] <;>
  ring

theorem kernel_streamCollide.u_2_pull (s : Site K) :
    kernel_streamCollide.u_2 s = kernel_collide.u_2 (pulled s) := by
  simp only [
    kernel_streamCollide.u_2, kernel_collide.u_2, kernel_streamCollide.xi_27_pull s,
    kernel_streamCollide.xi_30_pull s, kernel_streamCollide.vel2Term_pull s,
    kernel_streamCollide.xi_11_pull s, kernel_collide.xi_272_pulled s] <;>
  ring

theorem kernel_streamCollide.xi_45_pull (s : Site K) :
    kernel_streamCollide.xi_45 s = kernel_collide.xi_45 (pulled s) := by
  simp only [
    kernel_streamCollide.xi_45, kernel_collide.xi_45, kernel_streamCollide.u_2_pull s,
    kernel_collide.xi_273_pulled s] <;>
  ring

theorem kernel_streamCollide.xi_46_pull (s : Site K) :
    kernel_streamCollide.xi_46 s = kernel_collide.xi_46 (pulled s) := by
  simp only [
    kernel_streamCollide.xi_46, kernel_collide.xi_46, kernel_streamCollide.xi_45_pull s] <;>
  ring

theorem kernel_streamCollide.xi_47_pull (s : Site K) :
    kernel_streamCollide.xi_47 s = kernel_collide.xi_47 (pulled s) := by
  simp only [
    kernel_streamCollide.xi_47, kernel_collide.xi_47, kernel_streamCollide.xi_40_pull s,
    kernel_streamCollide.xi_42_pull s, kernel_streamCollide.xi_44_pull s,
    kernel_streamCollide.xi_46_pull s] <;>
  ring

theorem kernel_streamCollide.xi_50_pull (s : Site K) :
    kernel_streamCollide.xi_50 s = kernel_collide.xi_50 (pulled s) := by
  simp only [
    kernel_streamCollide.xi_50, kernel_collide.xi_50, kernel_streamCollide.xi_48_pull s,
    kernel_streamCollide.xi_49_pull s, kernel_streamCollide.xi_45_pull s] <;>
  ring

theorem kernel_streamCollide.xi_54_pull (s : Site K) :
    kernel_streamCollide.xi_54 s = kernel_collide.xi_54 (pulled s) := by
  simp only [
    kernel_streamCollide.xi_54, kernel_collide.xi_54, kernel_streamCollide.xi_46_pull s] <;>
  ring

theorem kernel_streamCollide.xi_55_pull (s : Site K) :
    kernel_streamCollide.xi_55 s = kernel_collide.xi_55 (pulled s) := by
  simp only [
    kernel_streamCollide.xi_55, kernel_collide.xi_55, kernel_streamCollide.xi_48_pull s,
    kernel_streamCollide.xi_43_pull s, kernel_streamCollide.xi_54_pull s] <;>
  ring

theorem kernel_streamCollide.xi_56_pull (s : Site K) :
    kernel_streamCollide.xi_56 s = kernel_collide.xi_56 (pulled s) := by
  simp only [
    kernel_streamCollide.xi_56, kernel_collide.xi_56, kernel_streamCollide.xi_41_pull s,
    kernel_streamCollide.xi_49_pull s, kernel_streamCollide.xi_54_pull s] <;>
  ring

theorem kernel_streamCollide.xi_59_pull (s : Site K) :
    kernel_streamCollide.xi_59 s = kernel_collide.xi_59 (pulled s) := by
  simp only [
    kernel_streamCollide.xi_59, kernel_collide.xi_59, kernel_streamCollide.xi_58_pull s,
    kernel_streamCollide.xi_50_pull s] <;>
  ring

theorem kernel_streamCollide.xi_60_pull (s : Site K) :
    kernel_streamCollide.xi_60 s = kernel_collide.xi_60 (pulled s) := by
  simp only [
    kernel_streamCollide.xi_60, kernel_collide.xi_60, kernel_streamCollide.xi_59_pull s] <;>
  ring

theorem kernel_streamCollide.xi_61_pull (s : Site K) :
    kernel_streamCollide.xi_61 s = kernel_collide.xi_61 (pulled s) := by
  simp only [
    kernel_streamCollide.xi_61, kernel_collide.xi_61, kernel_streamCollide.xi_58_pull s,
    kernel_streamCollide.xi_56_pull s] <;>
  ring

theorem kernel_streamCollide.xi_62_pull (s : Site K) :
    kernel_streamCollide.xi_62 s = kernel_collide.xi_62 (pulled s) := by
  simp only [
    kernel_streamCollide.xi_62, kernel_collide.xi_62, kernel_streamCollide.xi_61_pull s] <;>
  ring

theorem kernel_streamCollide.xi_64_pull (s : Site K) :
    kernel_streamCollide.xi_64 s = kernel_collide.xi_64 (pulled s) := by
  simp only [
    kernel_streamCollide.xi_64, kernel_collide.xi_64, kernel_streamCollide.xi_63_pull s,
    kernel_streamCollide.xi_55_pull s, kernel_streamCollide.xi_60_pull s,
    kernel_streamCollide.xi_62_pull s] <;>
  ring

theorem kernel_streamCollide.xi_66_pull (s : Site K) :
    kernel_streamCollide.xi_66 s = kernel_collide.xi_66 (pulled s) := by
  simp only [
    kernel_streamCollide.xi_66, kernel_collide.xi_66, kernel_streamCollide.xi_58_pull s,
    kernel_streamCollide.xi_55_pull s] <;>
  ring

theorem kernel_streamCollide.xi_67_pull (s : Site K) :
    kernel_streamCollide.xi_67 s = kernel_collide.xi_67 (pulled s) := by
  simp only [
    kernel_streamCollide.xi_67, kernel_collide.xi_67, kernel_streamCollide.xi_66_pull s] <;>
  ring

theorem kernel_streamCollide.xi_68_pull (s : Site K) :
    kernel_streamCollide.xi_68 s = kernel_collide.xi_68 (pulled s) := by
  simp only [
    kernel_streamCollide.xi_68, kernel_collide.xi_68, kernel_streamCollide.xi_63_pull s,
    kernel_streamCollide.xi_56_pull s, kernel_streamCollide.xi_60_pull s,
    kernel_streamCollide.xi_67_pull s] <;>
  ring

theorem kernel_streamCollide.xi_70_pull (s : Site K) :
    kernel_streamCollide.xi_70 s = kernel_collide.xi_70 (pulled s) := by
  simp only [
    kernel_streamCollide.xi_70, kernel_collide.xi_70, kernel_streamCollide.xi_63_pull s,
    kernel_streamCollide.xi_50_pull s, kernel_streamCollide.xi_62_pull s,
    kernel_streamCollide.xi_67_pull s] <;>
  ring

theorem kernel_streamCollide.xi_77_pull (s : Site K) :
    kernel_streamCollide.xi_77 s = kernel_collide.xi_77 (pulled s) := by
  simp only [
    kernel_streamCollide.xi_77, kernel_collide.xi_77, kernel_streamCollide.xi_76_pull s,
    kernel_streamCollide.xi_61_pull s] <;>
  ring

theorem kernel_streamCollide.xi_79_pull (s : Site K) :
    kernel_streamCollide.xi_79 s = kernel_collide.xi_79 (pulled s) := by
  simp only [
    kernel_streamCollide.xi_79, kernel_collide.xi_79, kernel_streamCollide.xi_78_pull s,
    kernel_streamCollide.xi_50_pull s] <;>
  ring

theorem kernel_streamCollide.xi_81_pull (s : Site K) :
    kernel_streamCollide.xi_81 s = kernel_collide.xi_81 (pulled s) := by
  simp only [
    kernel_streamCollide.xi_81, kernel_collide.xi_81, kernel_streamCollide.xi_47_pull s] <;>
  ring

theorem kernel_streamCollide.xi_82_pull (s : Site K) :
    kernel_streamCollide.xi_82 s = kernel_collide.xi_82 (pulled s) := by
  simp only [
    kernel_streamCollide.xi_82, kernel_collide.xi_82, kernel_streamCollide.xi_66_pull s,
    kernel_streamCollide.xi_81_pull s] <;>
  ring

theorem kernel_streamCollide.xi_83_pull (s : Site K) :
    kernel_streamCollide.xi_83 s = kernel_collide.xi_83 (pulled s) := by
  simp only [
    kernel_streamCollide.xi_83, kernel_collide.xi_83, kernel_streamCollide.xi_80_pull s,
    kernel_streamCollide.xi_82_pull s] <;>
  ring

theorem kernel_streamCollide.xi_84_pull (s : Site K) :
    kernel_streamCollide.xi_84 s = kernel_collide.xi_84 (pulled s) := by
  simp only [
    kernel_streamCollide.xi_84, kernel_collide.xi_84, kernel_streamCollide.xi_79_pull s,
    kernel_streamCollide.xi_83_pull s] <;>
  ring

theorem kernel_streamCollide.xi_85_pull (s : Site K) :
    kernel_streamCollide.xi_85 s = kernel_collide.xi_85 (pulled s) := by
  simp only [
    kernel_streamCollide.xi_85, kernel_collide.xi_85, kernel_streamCollide.xi_76_pull s,
    kernel_streamCollide.xi_61_pull s] <;>
  ring

theorem kernel_streamCollide.xi_86_pull (s : Site K) :
    kernel_streamCollide.xi_86 s = kernel_collide.xi_86 (pulled s) := by
  simp only [
    kernel_streamCollide.xi_86, kernel_collide.xi_86, kernel_streamCollide.xi_80_pull s,
    kernel_streamCollide.xi_82_pull s] <;>
  ring

theorem kernel_streamCollide.xi_87_pull (s : Site K) :
    kernel_streamCollide.xi_87 s = kernel_collide.xi_87 (pulled s) := by
  simp only [
    kernel_streamCollide.xi_87, kernel_collide.xi_87, kernel_streamCollide.xi_79_pull s,
    kernel_streamCollide.xi_86_pull s] <;>
  ring

theorem kernel_streamCollide.xi_88_pull (s : Site K) :
    kernel_streamCollide.xi_88 s = kernel_collide.xi_88 (pulled s) := by
  simp only [
    kernel_streamCollide.xi_88, kernel_collide.xi_88, kernel_streamCollide.xi_73_pull s,
    kernel_streamCollide.xi_72_pull s, kernel_streamCollide.xi_71_pull s,
    kernel_streamCollide.u_2_pull s, kernel_collide.xi_273_pulled s] <;>
  ring

theorem kernel_streamCollide.xi_89_pull (s : Site K) :
    kernel_streamCollide.xi_89 s = kernel_collide.xi_89 (pulled s) := by
  simp only [
    kernel_streamCollide.xi_89, kernel_collide.xi_89, kernel_streamCollide.xi_78_pull s,
    kernel_streamCollide.xi_56_pull s] <;>
  ring

theorem kernel_streamCollide.xi_91_pull (s : Site K) :
    kernel_streamCollide.xi_91 s = kernel_collide.xi_91 (pulled s) := by
  simp only [
    kernel_streamCollide.xi_91, kernel_collide.xi_91, kernel_streamCollide.xi_90_pull s,
    kernel_streamCollide.xi_59_pull s] <;>
  ring

theorem kernel_streamCollide.xi_92_pull (s : Site K) :
    kernel_streamCollide.xi_92 s = kernel_collide.xi_92 (pulled s) := by
  simp only [
    kernel_streamCollide.xi_92, kernel_collide.xi_92, kernel_streamCollide.xi_89_pull s,
    kernel_streamCollide.xi_91_pull s] <;>
  ring

theorem kernel_streamCollide.xi_93_pull (s : Site K) :
    kernel_streamCollide.xi_93 s = kernel_collide.xi_93 (pulled s) := by
  simp only [
    kernel_streamCollide.xi_93, kernel_collide.xi_93, kernel_streamCollide.xi_88_pull s] <;>
  ring

theorem kernel_streamCollide.xi_94_pull (s : Site K) :
    kernel_streamCollide.xi_94 s = kernel_collide.xi_94 (pulled s) := by
  simp only [
    kernel_streamCollide.xi_94, kernel_collide.xi_94, kernel_streamCollide.xi_73_pull s,
    kernel_streamCollide.u_0_pull s, kernel_streamCollide.u_2_pull s, kernel_collide.xi_273_pulled
    s, kernel_collide.xi_277_pulled s] <;>
  ring

theorem kernel_streamCollide.xi_95_pull (s : Site K) :
    kernel_streamCollide.xi_95 s = kernel_collide.xi_95 (pulled s) := by
  simp only [
    kernel_streamCollide.xi_95, kernel_collide.xi_95, kernel_streamCollide.xi_94_pull s] <;>
  ring

theorem kernel_streamCollide.xi_96_pull (s : Site K) :
    kernel_streamCollide.xi_96 s = kernel_collide.xi_96 (pulled s) := by
  simp only [
    kernel_streamCollide.xi_96, kernel_collide.xi_96, kernel_streamCollide.xi_78_pull s,
    kernel_streamCollide.xi_55_pull s] <;>
  ring

theorem kernel_streamCollide.xi_97_pull (s : Site K) :
    kernel_streamCollide.xi_97 s = kernel_collide.xi_97 (pulled s) := by
  simp only [
    kernel_streamCollide.xi_97, kernel_collide.xi_97, kernel_streamCollide.xi_81_pull s,
    kernel_streamCollide.xi_91_pull s, kernel_streamCollide.xi_96_pull s] <;>
  ring

theorem kernel_streamCollide.xi_98_pull (s : Site K) :
    kernel_streamCollide.xi_98 s = kernel_collide.xi_98 (pulled s) := by
  simp only [
    kernel_streamCollide.xi_98, kernel_collide.xi_98, kernel_streamCollide.xi_90_pull s,
    kernel_streamCollide.xi_59_pull s] <;>
  ring

theorem kernel_streamCollide.xi_99_pull (s : Site K) :
    kernel_streamCollide.xi_99 s = kernel_collide.xi_99 (pulled s) := by
  simp only [
    kernel_streamCollide.xi_99, kernel_collide.xi_99, kernel_streamCollide.xi_89_pull s,
    kernel_streamCollide.xi_98_pull s] <;>
  ring

theorem kernel_streamCollide.xi_100_pull (s : Site K) :
    kernel_streamCollide.xi_100 s = kernel_collide.xi_100 (pulled s) := by
  simp only [
    kernel_streamCollide.xi_100, kernel_collide.xi_100, kernel_streamCollide.xi_81_pull s,
    kernel_streamCollide.xi_96_pull s, kernel_streamCollide.xi_98_pull s] <;>
  ring

theorem kernel_streamCollide.xi_115_pull (s : Site K) :
    kernel_streamCollide.xi_115 s = kernel_collide.xi_115 (pulled s) := by
  simp only [
    kernel_streamCollide.xi_115, kernel_collide.xi_115, kernel_streamCollide.rho_pull s,
    kernel_streamCollide.u_2_pull s] <;>
  ring

theorem kernel_streamCollide.xi_123_pull (s : Site K) :
    kernel_streamCollide.xi_123 s = kernel_collide.xi_123 (pulled s) := by
  simp only [
    kernel_streamCollide.xi_123, kernel_collide.xi_123, kernel_streamCollide.xi_24_pull s,
    kernel_streamCollide.xi_28_pull s, kernel_streamCollide.xi_117_pull s,
    kernel_streamCollide.xi_122_pull s, kernel_streamCollide.xi_114_pull s,
    kernel_streamCollide.xi_120_pull s, kernel_streamCollide.xi_115_pull s,
    kernel_collide.xi_263_pulled s, pulled_omega_bulk s] <;>
  ring

theorem kernel_streamCollide.xi_155_pull (s : Site K) :
    kernel_streamCollide.xi_155 s = kernel_collide.xi_155 (pulled s) := by
  simp only [
    kernel_streamCollide.xi_155, kernel_collide.xi_155, kernel_streamCollide.xi_115_pull s,
    kernel_collide.xi_261_pulled s, kernel_collide.xi_267_pulled s] <;>
  ring

theorem kernel_streamCollide.xi_156_pull (s : Site K) :
    kernel_streamCollide.xi_156 s = kernel_collide.xi_156 (pulled s) := by
  simp only [
    kernel_streamCollide.xi_156, kernel_collide.xi_156, kernel_streamCollide.xi_1_pull s,
    kernel_streamCollide.xi_18_pull s, kernel_streamCollide.xi_23_pull s,
    kernel_streamCollide.xi_31_pull s, kernel_streamCollide.xi_120_pull s,
    kernel_streamCollide.xi_155_pull s, kernel_collide.xi_260_pulled s, pulled_omega_shear s] <;>
  ring

theorem kernel_streamCollide.xi_157_pull (s : Site K) :
    kernel_streamCollide.xi_157 s = kernel_collide.xi_157 (pulled s) := by
  simp only [
    kernel_streamCollide.xi_157, kernel_collide.xi_157, kernel_streamCollide.xi_156_pull s] <;>
  ring

theorem kernel_streamCollide.xi_159_pull (s : Site K) :
    kernel_streamCollide.xi_159 s = kernel_collide.xi_159 (pulled s) := by
  simp only [
    kernel_streamCollide.xi_159, kernel_collide.xi_159, kernel_streamCollide.xi_20_pull s,
    kernel_streamCollide.xi_111_pull s, kernel_streamCollide.xi_118_pull s,
    kernel_streamCollide.xi_122_pull s, kernel_streamCollide.xi_114_pull s,
    kernel_streamCollide.xi_119_pull s, kernel_streamCollide.xi_155_pull s,
    kernel_collide.xi_260_pulled s, kernel_collide.xi_266_pulled s, kernel_collide.xi_268_pulled
    s, kernel_collide.xi_278_pulled s, pulled_omega_shear s] <;>
  ring

theorem kernel_streamCollide.xi_161_pull (s : Site K) :
    kernel_streamCollide.xi_161 s = kernel_collide.xi_161 (pulled s) := by
  simp only [
    kernel_streamCollide.xi_161, kernel_collide.xi_161, kernel_streamCollide.xi_160_pull s,
    kernel_streamCollide.xi_159_pull s] <;>
  ring

theorem kernel_streamCollide.xi_162_pull (s : Site K) :
    kernel_streamCollide.xi_162 s = kernel_collide.xi_162 (pulled s) := by
  simp only [
    kernel_streamCollide.xi_162, kernel_collide.xi_162, kernel_streamCollide.xi_110_pull s,
    kernel_streamCollide.xi_104_pull s, kernel_streamCollide.xi_161_pull s] <;>
  ring

theorem kernel_streamCollide.xi_163_pull (s : Site K) :
    kernel_streamCollide.xi_163 s = kernel_collide.xi_163 (pulled s) := by
  simp only [
    kernel_streamCollide.xi_163, kernel_collide.xi_163, kernel_streamCollide.xi_113_pull s,
    kernel_streamCollide.xi_107_pull s, kernel_streamCollide.xi_154_pull s,
    kernel_streamCollide.xi_158_pull s, kernel_streamCollide.xi_157_pull s,
    kernel_streamCollide.xi_162_pull s] <;>
  ring

theorem kernel_streamCollide.xi_177_pull (s : Site K) :
    kernel_streamCollide.xi_177 s = kernel_collide.xi_177 (pulled s) := by
  simp only [
    kernel_streamCollide.xi_177, kernel_collide.xi_177, kernel_streamCollide.xi_113_pull s,
    kernel_streamCollide.xi_107_pull s, kernel_streamCollide.xi_158_pull s,
    kernel_streamCollide.xi_160_pull s, kernel_streamCollide.xi_159_pull s] <;>
  ring

theorem kernel_streamCollide.xi_182_pull (s : Site K) :
    kernel_streamCollide.xi_182 s = kernel_collide.xi_182 (pulled s) := by
  simp only [
    kernel_streamCollide.xi_182, kernel_collide.xi_182, kernel_streamCollide.xi_10_pull s,
    kernel_streamCollide.xi_116_pull s, kernel_streamCollide.xi_121_pull s,
    kernel_streamCollide.xi_179_pull s, kernel_streamCollide.vel2Term_pull s,
    kernel_streamCollide.rho_pull s, kernel_streamCollide.u_2_pull s, kernel_collide.xi_262_pulled
    s] <;>
  ring

theorem kernel_streamCollide.xi_183_pull (s : Site K) :
    kernel_streamCollide.xi_183 s = kernel_collide.xi_183 (pulled s) := by
  simp only [
    kernel_streamCollide.xi_183, kernel_collide.xi_183, kernel_streamCollide.xi_133_pull s,
    kernel_streamCollide.xi_182_pull s] <;>
  ring

theorem kernel_streamCollide.xi_191_pull (s : Site K) :
    kernel_streamCollide.xi_191 s = kernel_collide.xi_191 (pulled s) := by
  simp only [
    kernel_streamCollide.xi_191, kernel_collide.xi_191, kernel_streamCollide.xi_113_pull s,
    kernel_streamCollide.xi_127_pull s, kernel_streamCollide.xi_103_pull s,
    kernel_streamCollide.xi_107_pull s, kernel_streamCollide.xi_154_pull s,
    kernel_streamCollide.xi_157_pull s, kernel_streamCollide.xi_162_pull s] <;>
  ring

theorem kernel_streamCollide.xi_194_pull (s : Site K) :
    kernel_streamCollide.xi_194 s = kernel_collide.xi_194 (pulled s) := by
  simp only [
    kernel_streamCollide.xi_194, kernel_collide.xi_194, kernel_streamCollide.xi_156_pull s] <;>
  ring

theorem kernel_streamCollide.xi_199_pull (s : Site K) :
    kernel_streamCollide.xi_199 s = kernel_collide.xi_199 (pulled s) := by
  simp only [
    kernel_streamCollide.xi_199, kernel_collide.xi_199, kernel_streamCollide.xi_106_pull s,
    kernel_streamCollide.xi_123_pull s] <;>
  ring

theorem kernel_streamCollide.xi_200_pull (s : Site K) :
    kernel_streamCollide.xi_200 s = kernel_collide.xi_200 (pulled s) := by
  simp only [
    kernel_streamCollide.xi_200, kernel_collide.xi_200, kernel_streamCollide.xi_198_pull s,
    kernel_streamCollide.xi_199_pull s] <;>
  ring

theorem kernel_streamCollide.xi_201_pull (s : Site K) :
    kernel_streamCollide.xi_201 s = kernel_collide.xi_201 (pulled s) := by
  simp only [
    kernel_streamCollide.xi_201, kernel_collide.xi_201, kernel_streamCollide.xi_195_pull s,
    kernel_streamCollide.xi_164_pull s, kernel_streamCollide.xi_193_pull s,
    kernel_streamCollide.xi_196_pull s, kernel_streamCollide.xi_194_pull s,
    kernel_streamCollide.xi_200_pull s] <;>
  ring

theorem kernel_streamCollide.xi_203_pull (s : Site K) :
    kernel_streamCollide.xi_203 s = kernel_collide.xi_203 (pulled s) := by
  simp only [
    kernel_streamCollide.xi_203, kernel_collide.xi_203, kernel_streamCollide.xi_160_pull s,
    kernel_streamCollide.xi_159_pull s] <;>
  ring

theorem kernel_streamCollide.xi_204_pull (s : Site K) :
    kernel_streamCollide.xi_204 s = kernel_collide.xi_204 (pulled s) := by
  simp only [
    kernel_streamCollide.xi_204, kernel_collide.xi_204, kernel_streamCollide.xi_202_pull s,
    kernel_streamCollide.xi_203_pull s] <;>
  ring

theorem kernel_streamCollide.xi_205_pull (s : Site K) :
    kernel_streamCollide.xi_205 s = kernel_collide.xi_205 (pulled s) := by
  simp only [
    kernel_streamCollide.xi_205, kernel_collide.xi_205, kernel_streamCollide.xi_178_pull s,
    kernel_streamCollide.xi_204_pull s] <;>
  ring

theorem kernel_streamCollide.xi_211_pull (s : Site K) :
    kernel_streamCollide.xi_211 s = kernel_collide.xi_211 (pulled s) := by
  simp only [
    kernel_streamCollide.xi_211, kernel_collide.xi_211, kernel_streamCollide.xi_202_pull s,
    kernel_streamCollide.xi_203_pull s] <;>
  ring

theorem kernel_streamCollide.xi_212_pull (s : Site K) :
    kernel_streamCollide.xi_212 s = kernel_collide.xi_212 (pulled s) := by
  simp only [
    kernel_streamCollide.xi_212, kernel_collide.xi_212, kernel_streamCollide.xi_176_pull s,
    kernel_streamCollide.xi_211_pull s] <;>
  ring

theorem kernel_streamCollide.xi_213_pull (s : Site K) :
    kernel_streamCollide.xi_213 s = kernel_collide.xi_213 (pulled s) := by
  simp only [
    kernel_streamCollide.xi_213, kernel_collide.xi_213, kernel_streamCollide.xi_198_pull s,
    kernel_streamCollide.xi_199_pull s] <;>
  ring

theorem kernel_streamCollide.xi_214_pull (s : Site K) :
    kernel_streamCollide.xi_214 s = kernel_collide.xi_214 (pulled s) := by
  simp only [
    kernel_streamCollide.xi_214, kernel_collide.xi_214, kernel_streamCollide.xi_195_pull s,
    kernel_streamCollide.xi_150_pull s, kernel_streamCollide.xi_193_pull s,
    kernel_streamCollide.xi_196_pull s, kernel_streamCollide.xi_194_pull s,
    kernel_streamCollide.xi_213_pull s] <;>
  ring

theorem kernel_streamCollide.xi_230_pull (s : Site K) :
    kernel_streamCollide.xi_230 s = kernel_collide.xi_230 (pulled s) := by
  simp only [
    kernel_streamCollide.xi_230, kernel_collide.xi_230, kernel_streamCollide.xi_197_pull s,
    kernel_streamCollide.xi_182_pull s] <;>
  ring

theorem kernel_streamCollide.xi_232_pull (s : Site K) :
    kernel_streamCollide.xi_232 s = kernel_collide.xi_232 (pulled s) := by
  simp only [
    kernel_streamCollide.xi_232, kernel_collide.xi_232, kernel_streamCollide.xi_231_pull s,
    kernel_streamCollide.xi_230_pull s] <;>
  ring

theorem kernel_streamCollide.xi_233_pull (s : Site K) :
    kernel_streamCollide.xi_233 s = kernel_collide.xi_233 (pulled s) := by
  simp only [
    kernel_streamCollide.xi_233, kernel_collide.xi_233, kernel_streamCollide.xi_223_pull s,
    kernel_streamCollide.xi_225_pull s, kernel_streamCollide.xi_227_pull s,
    kernel_streamCollide.xi_229_pull s, kernel_streamCollide.xi_232_pull s] <;>
  ring

theorem kernel_streamCollide.xi_238_pull (s : Site K) :
    kernel_streamCollide.xi_238 s = kernel_collide.xi_238 (pulled s) := by
  simp only [
    kernel_streamCollide.xi_238, kernel_collide.xi_238, kernel_streamCollide.xi_234_pull s,
    kernel_streamCollide.xi_235_pull s, kernel_streamCollide.xi_236_pull s,
    kernel_streamCollide.xi_237_pull s, kernel_streamCollide.xi_200_pull s] <;>
  ring

theorem kernel_streamCollide.xi_239_pull (s : Site K) :
    kernel_streamCollide.xi_239 s = kernel_collide.xi_239 (pulled s) := by
  simp only [
    kernel_streamCollide.xi_239, kernel_collide.xi_239, kernel_streamCollide.xi_234_pull s,
    kernel_streamCollide.xi_235_pull s, kernel_streamCollide.xi_236_pull s,
    kernel_streamCollide.xi_237_pull s, kernel_streamCollide.xi_213_pull s] <;>
  ring

theorem kernel_streamCollide.xi_242_pull (s : Site K) :
    kernel_streamCollide.xi_242 s = kernel_collide.xi_242 (pulled s) := by
  simp only [
    kernel_streamCollide.xi_242, kernel_collide.xi_242, kernel_streamCollide.xi_194_pull s] <;>
  ring

theorem kernel_streamCollide.xi_245_pull (s : Site K) :
    kernel_streamCollide.xi_245 s = kernel_collide.xi_245 (pulled s) := by
  simp only [
    kernel_streamCollide.xi_245, kernel_collide.xi_245, kernel_streamCollide.xi_243_pull s,
    kernel_streamCollide.xi_192_pull s, kernel_streamCollide.xi_241_pull s,
    kernel_streamCollide.xi_244_pull s, kernel_streamCollide.xi_199_pull s,
    kernel_streamCollide.xi_232_pull s, kernel_streamCollide.xi_242_pull s] <;>
  ring

theorem kernel_streamCollide.xi_253_pull (s : Site K) :
    kernel_streamCollide.xi_253 s = kernel_collide.xi_253 (pulled s) := by
  simp only [
    kernel_streamCollide.xi_253, kernel_collide.xi_253, kernel_streamCollide.xi_249_pull s,
    kernel_streamCollide.xi_250_pull s, kernel_streamCollide.xi_251_pull s,
    kernel_streamCollide.xi_252_pull s, kernel_streamCollide.xi_204_pull s] <;>
  ring

theorem kernel_streamCollide.xi_255_pull (s : Site K) :
    kernel_streamCollide.xi_255 s = kernel_collide.xi_255 (pulled s) := by
  simp only [
    kernel_streamCollide.xi_255, kernel_collide.xi_255, kernel_streamCollide.xi_249_pull s,
    kernel_streamCollide.xi_250_pull s, kernel_streamCollide.xi_251_pull s,
    kernel_streamCollide.xi_252_pull s, kernel_streamCollide.xi_211_pull s] <;>
  ring

theorem kernel_streamCollide.xi_256_pull (s : Site K) :
    kernel_streamCollide.xi_256 s = kernel_collide.xi_256 (pulled s) := by
  simp only [
    kernel_streamCollide.xi_256, kernel_collide.xi_256, kernel_streamCollide.xi_231_pull s,
    kernel_streamCollide.xi_230_pull s] <;>
  ring

theorem kernel_streamCollide.xi_257_pull (s : Site K) :
    kernel_streamCollide.xi_257 s = kernel_collide.xi_257 (pulled s) := by
  simp only [
    kernel_streamCollide.xi_257, kernel_collide.xi_257, kernel_streamCollide.xi_223_pull s,
    kernel_streamCollide.xi_225_pull s, kernel_streamCollide.xi_227_pull s,
    kernel_streamCollide.xi_229_pull s, kernel_streamCollide.xi_256_pull s] <;>
  ring

theorem kernel_streamCollide.xi_258_pull (s : Site K) :
    kernel_streamCollide.xi_258 s = kernel_collide.xi_258 (pulled s) := by
  simp only [
    kernel_streamCollide.xi_258, kernel_collide.xi_258, kernel_streamCollide.xi_243_pull s,
    kernel_streamCollide.xi_190_pull s, kernel_streamCollide.xi_241_pull s,
    kernel_streamCollide.xi_244_pull s, kernel_streamCollide.xi_199_pull s,
    kernel_streamCollide.xi_242_pull s, kernel_streamCollide.xi_256_pull s] <;>
  ring

theorem kernel_streamCollide.p_0_pull (s : Site K) :
    kernel_streamCollide.p_0 s = kernel_collide.p_0 (pulled s) := by
  simp only [
    kernel_streamCollide.p_0, kernel_collide.p_0, kernel_streamCollide.xi_2_pull s,
    kernel_streamCollide.xi_32_pull s] <;>
  ring

theorem kernel_streamCollide.p_1_pull (s : Site K) :
    kernel_streamCollide.p_1 s = kernel_collide.p_1 (pulled s) := by
  simp only [
    kernel_streamCollide.p_1, kernel_collide.p_1, kernel_streamCollide.xi_33_pull s] <;>
  ring

theorem kernel_streamCollide.xi_208_pull (s : Site K) :
    kernel_streamCollide.xi_208 s = kernel_collide.xi_208 (pulled s) := by
  simp only [
    kernel_streamCollide.xi_208, kernel_collide.xi_208, kernel_streamCollide.xi_207_pull s,
    kernel_streamCollide.u_0_pull s, kernel_streamCollide.xi_131_pull s,
    kernel_streamCollide.p_1_pull s] <;>
  ring

theorem kernel_streamCollide.xi_209_pull (s : Site K) :
    kernel_streamCollide.xi_209 s = kernel_collide.xi_209 (pulled s) := by
  simp only [
    kernel_streamCollide.xi_209, kernel_collide.xi_209, kernel_streamCollide.xi_206_pull s,
    kernel_streamCollide.xi_208_pull s] <;>
  ring

theorem kernel_streamCollide.xi_210_pull (s : Site K) :
    kernel_streamCollide.xi_210 s = kernel_collide.xi_210 (pulled s) := by
  simp only [
    kernel_streamCollide.xi_210, kernel_collide.xi_210, kernel_streamCollide.xi_206_pull s,
    kernel_streamCollide.xi_208_pull s] <;>
  ring

theorem kernel_streamCollide.p_2_pull (s : Site K) :
    kernel_streamCollide.p_2 s = kernel_collide.p_2 (pulled s) := by
  simp only [
    kernel_streamCollide.p_2, kernel_collide.p_2, kernel_streamCollide.xi_36_pull s] <;>
  ring

theorem kernel_streamCollide.xi_247_pull (s : Site K) :
    kernel_streamCollide.xi_247 s = kernel_collide.xi_247 (pulled s) := by
  simp only [
    kernel_streamCollide.xi_247, kernel_collide.xi_247, kernel_streamCollide.xi_207_pull s,
    kernel_streamCollide.xi_165_pull s, kernel_streamCollide.u_2_pull s,
    kernel_streamCollide.p_2_pull s] <;>
  ring

theorem kernel_streamCollide.xi_248_pull (s : Site K) :
    kernel_streamCollide.xi_248 s = kernel_collide.xi_248 (pulled s) := by
  simp only [
    kernel_streamCollide.xi_248, kernel_collide.xi_248, kernel_streamCollide.xi_246_pull s,
    kernel_streamCollide.xi_247_pull s] <;>
  ring

theorem kernel_streamCollide.xi_254_pull (s : Site K) :
    kernel_streamCollide.xi_254 s = kernel_collide.xi_254 (pulled s) := by
  simp only [
    kernel_streamCollide.xi_254, kernel_collide.xi_254, kernel_streamCollide.xi_246_pull s,
    kernel_streamCollide.xi_247_pull s] <;>
  ring

theorem kernel_streamCollide.p_3_pull (s : Site K) :
    kernel_streamCollide.p_3 s = kernel_collide.p_3 (pulled s) := by
  simp only [
    kernel_streamCollide.p_3, kernel_collide.p_3, kernel_streamCollide.xi_33_pull s] <;>
  ring

theorem kernel_streamCollide.p_4_pull (s : Site K) :
    kernel_streamCollide.p_4 s = kernel_collide.p_4 (pulled s) := by
  simp only [
    kernel_streamCollide.p_4, kernel_collide.p_4, kernel_streamCollide.xi_0_pull s,
    kernel_streamCollide.xi_5_pull s, kernel_streamCollide.xi_37_pull s] <;>
  ring

theorem kernel_streamCollide.p_5_pull (s : Site K) :
    kernel_streamCollide.p_5 s = kernel_collide.p_5 (pulled s) := by
  simp only [
    kernel_streamCollide.p_5, kernel_collide.p_5, kernel_streamCollide.xi_39_pull s] <;>
  ring

theorem kernel_streamCollide.xi_217_pull (s : Site K) :
    kernel_streamCollide.xi_217 s = kernel_collide.xi_217 (pulled s) := by
  simp only [
    kernel_streamCollide.xi_217, kernel_collide.xi_217, kernel_streamCollide.xi_207_pull s,
    kernel_streamCollide.xi_131_pull s, kernel_streamCollide.u_2_pull s,
    kernel_streamCollide.p_5_pull s] <;>
  ring

theorem kernel_streamCollide.xi_221_pull (s : Site K) :
    kernel_streamCollide.xi_221 s = kernel_collide.xi_221 (pulled s) := by
  simp only [
    kernel_streamCollide.xi_221, kernel_collide.xi_221, kernel_streamCollide.xi_216_pull s,
    kernel_streamCollide.xi_218_pull s, kernel_streamCollide.xi_215_pull s,
    kernel_streamCollide.xi_219_pull s, kernel_streamCollide.xi_220_pull s,
    kernel_streamCollide.xi_161_pull s, kernel_streamCollide.xi_217_pull s] <;>
  ring

theorem kernel_streamCollide.xi_240_pull (s : Site K) :
    kernel_streamCollide.xi_240 s = kernel_collide.xi_240 (pulled s) := by
  simp only [
    kernel_streamCollide.xi_240, kernel_collide.xi_240, kernel_streamCollide.xi_216_pull s,
    kernel_streamCollide.xi_218_pull s, kernel_streamCollide.xi_215_pull s,
    kernel_streamCollide.xi_219_pull s, kernel_streamCollide.xi_220_pull s,
    kernel_streamCollide.xi_161_pull s, kernel_streamCollide.xi_217_pull s] <;>
  ring

theorem kernel_streamCollide.p_6_pull (s : Site K) :
    kernel_streamCollide.p_6 s = kernel_collide.p_6 (pulled s) := by
  simp only [
    kernel_streamCollide.p_6, kernel_collide.p_6, kernel_streamCollide.xi_36_pull s] <;>
  ring

theorem kernel_streamCollide.p_7_pull (s : Site K) :
    kernel_streamCollide.p_7 s = kernel_collide.p_7 (pulled s) := by
  simp only [
    kernel_streamCollide.p_7, kernel_collide.p_7, kernel_streamCollide.xi_39_pull s] <;>
  ring

theorem kernel_streamCollide.p_8_pull (s : Site K) :
    kernel_streamCollide.p_8 s = kernel_collide.p_8 (pulled s) := by
  simp only [
    kernel_streamCollide.p_8, kernel_collide.p_8, kernel_streamCollide.xi_1_pull s,
    kernel_streamCollide.xi_3_pull s, kernel_streamCollide.xi_7_pull s,
    kernel_streamCollide.xi_10_pull s, kernel_collide.xi_280_pulled s] <;>
  ring

theorem kernel_streamCollide.forceTerm_0_pull (s : Site K) :
    kernel_streamCollide.forceTerm_0 s = kernel_collide.forceTerm_0 (pulled s) := by
  simp only [
    kernel_streamCollide.forceTerm_0, kernel_collide.forceTerm_0, kernel_streamCollide.xi_53_pull
    s, kernel_streamCollide.xi_47_pull s, kernel_streamCollide.xi_50_pull s,
    kernel_streamCollide.xi_55_pull s, kernel_streamCollide.xi_56_pull s] <;>
  ring

theorem kernel_streamCollide.forceTerm_1_pull (s : Site K) :
    kernel_streamCollide.forceTerm_1 s = kernel_collide.forceTerm_1 (pulled s) := by
  simp only [
    kernel_streamCollide.forceTerm_1, kernel_collide.forceTerm_1, kernel_streamCollide.xi_57_pull
    s, kernel_streamCollide.xi_64_pull s] <;>
  ring

theorem kernel_streamCollide.forceTerm_2_pull (s : Site K) :
    kernel_streamCollide.forceTerm_2 s = kernel_collide.forceTerm_2 (pulled s) := by
  simp only [
    kernel_streamCollide.forceTerm_2, kernel_collide.forceTerm_2, kernel_streamCollide.xi_57_pull
    s, kernel_streamCollide.xi_64_pull s] <;>
  ring

theorem kernel_streamCollide.forceTerm_3_pull (s : Site K) :
    kernel_streamCollide.forceTerm_3 s = kernel_collide.forceTerm_3 (pulled s) := by
  simp only [
    kernel_streamCollide.forceTerm_3, kernel_collide.forceTerm_3, kernel_streamCollide.xi_65_pull
    s, kernel_streamCollide.xi_68_pull s] <;>
  ring

theorem kernel_streamCollide.forceTerm_4_pull (s : Site K) :
    kernel_streamCollide.forceTerm_4 s = kernel_collide.forceTerm_4 (pulled s) := by
  simp only [
    kernel_streamCollide.forceTerm_4, kernel_collide.forceTerm_4, kernel_streamCollide.xi_65_pull
    s, kernel_streamCollide.xi_68_pull s] <;>
  ring

theorem kernel_streamCollide.forceTerm_5_pull (s : Site K) :
    kernel_streamCollide.forceTerm_5 s = kernel_collide.forceTerm_5 (pulled s) := by
  simp only [
    kernel_streamCollide.forceTerm_5, kernel_collide.forceTerm_5, kernel_streamCollide.xi_69_pull
    s, kernel_streamCollide.xi_70_pull s] <;>
  ring

theorem kernel_streamCollide.forceTerm_6_pull (s : Site K) :
    kernel_streamCollide.forceTerm_6 s = kernel_collide.forceTerm_6 (pulled s) := by
  simp only [
    kernel_streamCollide.forceTerm_6, kernel_collide.forceTerm_6, kernel_streamCollide.xi_69_pull
    s, kernel_streamCollide.xi_70_pull s] <;>
  ring

theorem kernel_streamCollide.forceTerm_7_pull (s : Site K) :
    kernel_streamCollide.forceTerm_7 s = kernel_collide.forceTerm_7 (pulled s) := by
  simp only [
    kernel_streamCollide.forceTerm_7, kernel_collide.forceTerm_7, kernel_streamCollide.xi_75_pull
    s, kernel_streamCollide.xi_77_pull s, kernel_streamCollide.xi_84_pull s] <;>
  ring

theorem kernel_streamCollide.forceTerm_8_pull (s : Site K) :
    kernel_streamCollide.forceTerm_8 s = kernel_collide.forceTerm_8 (pulled s) := by
  simp only [
    kernel_streamCollide.forceTerm_8, kernel_collide.forceTerm_8, kernel_streamCollide.xi_74_pull
    s, kernel_streamCollide.xi_84_pull s, kernel_streamCollide.xi_85_pull s] <;>
  ring

theorem kernel_streamCollide.forceTerm_9_pull (s : Site K) :
    kernel_streamCollide.forceTerm_9 s = kernel_collide.forceTerm_9 (pulled s) := by
  simp only [
    kernel_streamCollide.forceTerm_9, kernel_collide.forceTerm_9, kernel_streamCollide.xi_74_pull
    s, kernel_streamCollide.xi_77_pull s, kernel_streamCollide.xi_87_pull s] <;>
  ring

theorem kernel_streamCollide.forceTerm_10_pull (s : Site K) :
    kernel_streamCollide.forceTerm_10 s = kernel_collide.forceTerm_10 (pulled s) := by
  simp only [
    kernel_streamCollide.forceTerm_10, kernel_collide.forceTerm_10,
    kernel_streamCollide.xi_75_pull s, kernel_streamCollide.xi_85_pull s,
    kernel_streamCollide.xi_87_pull s] <;>
  ring

theorem kernel_streamCollide.forceTerm_11_pull (s : Site K) :
    kernel_streamCollide.forceTerm_11 s = kernel_collide.forceTerm_11 (pulled s) := by
  simp only [
    kernel_streamCollide.forceTerm_11, kernel_collide.forceTerm_11,
    kernel_streamCollide.xi_83_pull s, kernel_streamCollide.xi_88_pull s,
    kernel_streamCollide.xi_92_pull s] <;>
  ring

theorem kernel_streamCollide.forceTerm_12_pull (s : Site K) :
    kernel_streamCollide.forceTerm_12 s = kernel_collide.forceTerm_12 (pulled s) := by
  simp only [
    kernel_streamCollide.forceTerm_12, kernel_collide.forceTerm_12,
    kernel_streamCollide.xi_86_pull s, kernel_streamCollide.xi_92_pull s,
    kernel_streamCollide.xi_93_pull s] <;>
  ring

theorem kernel_streamCollide.forceTerm_13_pull (s : Site K) :
    kernel_streamCollide.forceTerm_13 s = kernel_collide.forceTerm_13 (pulled s) := by
  simp only [
    kernel_streamCollide.forceTerm_13, kernel_collide.forceTerm_13,
    kernel_streamCollide.xi_77_pull s, kernel_streamCollide.xi_95_pull s,
    kernel_streamCollide.xi_97_pull s] <;>
  ring

theorem kernel_streamCollide.forceTerm_14_pull (s : Site K) :
    kernel_streamCollide.forceTerm_14 s = kernel_collide.forceTerm_14 (pulled s) := by
  simp only [
    kernel_streamCollide.forceTerm_14, kernel_collide.forceTerm_14,
    kernel_streamCollide.xi_85_pull s, kernel_streamCollide.xi_94_pull s,
    kernel_streamCollide.xi_97_pull s] <;>
  ring

theorem kernel_streamCollide.forceTerm_15_pull (s : Site K) :
    kernel_streamCollide.forceTerm_15 s = kernel_collide.forceTerm_15 (pulled s) := by
  simp only [
    kernel_streamCollide.forceTerm_15, kernel_collide.forceTerm_15,
    kernel_streamCollide.xi_83_pull s, kernel_streamCollide.xi_93_pull s,
    kernel_streamCollide.xi_99_pull s] <;>
  ring

theorem kernel_streamCollide.forceTerm_16_pull (s : Site K) :
    kernel_streamCollide.forceTerm_16 s = kernel_collide.forceTerm_16 (pulled s) := by
  simp only [
    kernel_streamCollide.forceTerm_16, kernel_collide.forceTerm_16,
    kernel_streamCollide.xi_86_pull s, kernel_streamCollide.xi_88_pull s,
    kernel_streamCollide.xi_99_pull s] <;>
  ring

theorem kernel_streamCollide.forceTerm_17_pull (s : Site K) :
    kernel_streamCollide.forceTerm_17 s = kernel_collide.forceTerm_17 (pulled s) := by
  simp only [
    kernel_streamCollide.forceTerm_17, kernel_collide.forceTerm_17,
    kernel_streamCollide.xi_77_pull s, kernel_streamCollide.xi_94_pull s,
    kernel_streamCollide.xi_100_pull s] <;>
  ring

theorem kernel_streamCollide.forceTerm_18_pull (s : Site K) :
    kernel_streamCollide.forceTerm_18 s = kernel_collide.forceTerm_18 (pulled s) := by
  simp only [
    kernel_streamCollide.forceTerm_18, kernel_collide.forceTerm_18,
    kernel_streamCollide.xi_85_pull s, kernel_streamCollide.xi_95_pull s,
    kernel_streamCollide.xi_100_pull s] <;>
  ring

theorem kernel_streamCollide.store_0_pull (s : Site K) :
    kernel_streamCollide.store_0 s = kernel_collide.store_0 (pulled s) := by
  simp only [
    kernel_streamCollide.store_0, kernel_collide.store_0, kernel_streamCollide.xi_110_pull s,
    kernel_streamCollide.xi_113_pull s, kernel_streamCollide.xi_127_pull s,
    kernel_streamCollide.xi_103_pull s, kernel_streamCollide.xi_104_pull s,
    kernel_streamCollide.xi_106_pull s, kernel_streamCollide.xi_107_pull s,
    kernel_streamCollide.xi_123_pull s, kernel_streamCollide.forceTerm_0_pull s,
    kernel_collide.xi_263_pulled s] <;>
  ring

theorem kernel_streamCollide.store_1_pull (s : Site K) :
    kernel_streamCollide.store_1 s = kernel_collide.store_1 (pulled s) := by
  simp only [
    kernel_streamCollide.store_1, kernel_collide.store_1, kernel_streamCollide.xi_130_pull s,
    kernel_streamCollide.xi_139_pull s, kernel_streamCollide.xi_150_pull s,
    kernel_streamCollide.xi_134_pull s, kernel_streamCollide.xi_163_pull s,
    kernel_streamCollide.forceTerm_1_pull s, kernel_collide.xi_260_pulled s] <;>
  ring

theorem kernel_streamCollide.store_2_pull (s : Site K) :
    kernel_streamCollide.store_2 s = kernel_collide.store_2 (pulled s) := by
  simp only [
    kernel_streamCollide.store_2, kernel_collide.store_2, kernel_streamCollide.xi_130_pull s,
    kernel_streamCollide.xi_139_pull s, kernel_streamCollide.xi_164_pull s,
    kernel_streamCollide.xi_134_pull s, kernel_streamCollide.xi_163_pull s,
    kernel_streamCollide.forceTerm_2_pull s, kernel_collide.xi_278_pulled s] <;>
  ring

theorem kernel_streamCollide.store_3_pull (s : Site K) :
    kernel_streamCollide.store_3 s = kernel_collide.store_3 (pulled s) := by
  simp only [
    kernel_streamCollide.store_3, kernel_collide.store_3, kernel_streamCollide.xi_169_pull s,
    kernel_streamCollide.xi_171_pull s, kernel_streamCollide.xi_176_pull s,
    kernel_streamCollide.xi_167_pull s, kernel_streamCollide.xi_177_pull s,
    kernel_streamCollide.forceTerm_3_pull s, kernel_collide.xi_268_pulled s] <;>
  ring

theorem kernel_streamCollide.store_4_pull (s : Site K) :
    kernel_streamCollide.store_4 s = kernel_collide.store_4 (pulled s) := by
  simp only [
    kernel_streamCollide.store_4, kernel_collide.store_4, kernel_streamCollide.xi_169_pull s,
    kernel_streamCollide.xi_171_pull s, kernel_streamCollide.xi_178_pull s,
    kernel_streamCollide.xi_167_pull s, kernel_streamCollide.xi_177_pull s,
    kernel_streamCollide.forceTerm_4_pull s, kernel_collide.xi_266_pulled s] <;>
  ring

theorem kernel_streamCollide.store_5_pull (s : Site K) :
    kernel_streamCollide.store_5 s = kernel_collide.store_5 (pulled s) := by
  simp only [
    kernel_streamCollide.store_5, kernel_collide.store_5, kernel_streamCollide.xi_181_pull s,
    kernel_streamCollide.xi_185_pull s, kernel_streamCollide.xi_190_pull s,
    kernel_streamCollide.xi_183_pull s, kernel_streamCollide.xi_191_pull s,
    kernel_streamCollide.forceTerm_5_pull s, kernel_collide.xi_261_pulled s] <;>
  ring

theorem kernel_streamCollide.store_6_pull (s : Site K) :
    kernel_streamCollide.store_6 s = kernel_collide.store_6 (pulled s) := by
  simp only [
    kernel_streamCollide.store_6, kernel_collide.store_6, kernel_streamCollide.xi_181_pull s,
    kernel_streamCollide.xi_185_pull s, kernel_streamCollide.xi_192_pull s,
    kernel_streamCollide.xi_183_pull s, kernel_streamCollide.xi_191_pull s,
    kernel_streamCollide.forceTerm_6_pull s, kernel_collide.xi_267_pulled s] <;>
  ring

theorem kernel_streamCollide.store_7_pull (s : Site K) :
    kernel_streamCollide.store_7 s = kernel_collide.store_7 (pulled s) := by
  simp only [
    kernel_streamCollide.store_7, kernel_collide.store_7, kernel_streamCollide.xi_201_pull s,
    kernel_streamCollide.xi_205_pull s, kernel_streamCollide.xi_209_pull s,
    kernel_streamCollide.forceTerm_7_pull s, kernel_collide.xi_269_pulled s] <;>
  ring

theorem kernel_streamCollide.store_8_pull (s : Site K) :
    kernel_streamCollide.store_8 s = kernel_collide.store_8 (pulled s) := by
  simp only [
    kernel_streamCollide.store_8, kernel_collide.store_8, kernel_streamCollide.xi_201_pull s,
    kernel_streamCollide.xi_212_pull s, kernel_streamCollide.xi_210_pull s,
    kernel_streamCollide.forceTerm_8_pull s, kernel_collide.xi_259_pulled s] <;>
  ring

theorem kernel_streamCollide.store_9_pull (s : Site K) :
    kernel_streamCollide.store_9 s = kernel_collide.store_9 (pulled s) := by
  simp only [
    kernel_streamCollide.store_9, kernel_collide.store_9, kernel_streamCollide.xi_205_pull s,
    kernel_streamCollide.xi_214_pull s, kernel_streamCollide.xi_210_pull s,
    kernel_streamCollide.forceTerm_9_pull s, kernel_collide.xi_274_pulled s] <;>
  ring

theorem kernel_streamCollide.store_10_pull (s : Site K) :
    kernel_streamCollide.store_10 s = kernel_collide.store_10 (pulled s) := by
  simp only [
    kernel_streamCollide.store_10, kernel_collide.store_10, kernel_streamCollide.xi_212_pull s,
    kernel_streamCollide.xi_214_pull s, kernel_streamCollide.xi_209_pull s,
    kernel_streamCollide.forceTerm_10_pull s, kernel_collide.xi_265_pulled s] <;>
  ring

theorem kernel_streamCollide.store_11_pull (s : Site K) :
    kernel_streamCollide.store_11 s = kernel_collide.store_11 (pulled s) := by
  simp only [
    kernel_streamCollide.store_11, kernel_collide.store_11, kernel_streamCollide.xi_233_pull s,
    kernel_streamCollide.xi_238_pull s, kernel_streamCollide.xi_221_pull s,
    kernel_streamCollide.forceTerm_11_pull s, kernel_collide.xi_264_pulled s] <;>
  ring

theorem kernel_streamCollide.store_12_pull (s : Site K) :
    kernel_streamCollide.store_12 s = kernel_collide.store_12 (pulled s) := by
  simp only [
    kernel_streamCollide.store_12, kernel_collide.store_12, kernel_streamCollide.xi_233_pull s,
    kernel_streamCollide.xi_239_pull s, kernel_streamCollide.xi_240_pull s,
    kernel_streamCollide.forceTerm_12_pull s, kernel_collide.xi_279_pulled s] <;>
  ring

theorem kernel_streamCollide.store_13_pull (s : Site K) :
    kernel_streamCollide.store_13 s = kernel_collide.store_13 (pulled s) := by
  simp only [
    kernel_streamCollide.store_13, kernel_collide.store_13, kernel_streamCollide.xi_245_pull s,
    kernel_streamCollide.xi_253_pull s, kernel_streamCollide.xi_248_pull s,
    kernel_streamCollide.forceTerm_13_pull s, kernel_collide.xi_275_pulled s] <;>
  ring

theorem kernel_streamCollide.store_14_pull (s : Site K) :
    kernel_streamCollide.store_14 s = kernel_collide.store_14 (pulled s) := by
  simp only [
    kernel_streamCollide.store_14, kernel_collide.store_14, kernel_streamCollide.xi_245_pull s,
    kernel_streamCollide.xi_255_pull s, kernel_streamCollide.xi_254_pull s,
    kernel_streamCollide.forceTerm_14_pull s, kernel_collide.xi_272_pulled s] <;>
  ring

theorem kernel_streamCollide.store_15_pull (s : Site K) :
    kernel_streamCollide.store_15 s = kernel_collide.store_15 (pulled s) := by
  simp only [
    kernel_streamCollide.store_15, kernel_collide.store_15, kernel_streamCollide.xi_238_pull s,
    kernel_streamCollide.xi_257_pull s, kernel_streamCollide.xi_240_pull s,
    kernel_streamCollide.forceTerm_15_pull s, kernel_collide.xi_270_pulled s] <;>
  ring

theorem kernel_streamCollide.store_16_pull (s : Site K) :
    kernel_streamCollide.store_16 s = kernel_collide.store_16 (pulled s) := by
  simp only [
    kernel_streamCollide.store_16, kernel_collide.store_16, kernel_streamCollide.xi_239_pull s,
    kernel_streamCollide.xi_257_pull s, kernel_streamCollide.xi_221_pull s,
    kernel_streamCollide.forceTerm_16_pull s, kernel_collide.xi_280_pulled s] <;>
  ring

theorem kernel_streamCollide.store_17_pull (s : Site K) :
    kernel_streamCollide.store_17 s = kernel_collide.store_17 (pulled s) := by
  simp only [
    kernel_streamCollide.store_17, kernel_collide.store_17, kernel_streamCollide.xi_253_pull s,
    kernel_streamCollide.xi_258_pull s, kernel_streamCollide.xi_254_pull s,
    kernel_streamCollide.forceTerm_17_pull s, kernel_collide.xi_276_pulled s] <;>
  ring

theorem kernel_streamCollide.store_18_pull (s : Site K) :
    kernel_streamCollide.store_18 s = kernel_collide.store_18 (pulled s) := by
  simp only [
    kernel_streamCollide.store_18, kernel_collide.store_18, kernel_streamCollide.xi_255_pull s,
    kernel_streamCollide.xi_258_pull s, kernel_streamCollide.xi_248_pull s,
    kernel_streamCollide.forceTerm_18_pull s, kernel_collide.xi_262_pulled s] <;>
  ring

/-- The fused kernel writes what the collision writes for the populations pulled by a
streaming step. -/
theorem kernel_streamCollide.values_pull (s : Site K) :
    kernel_streamCollide.values s = kernel_collide.values (pulled s) := by
  simp only [kernel_streamCollide.values, kernel_collide.values,
    kernel_streamCollide.store_0_pull s, kernel_streamCollide.store_1_pull s,
    kernel_streamCollide.store_2_pull s, kernel_streamCollide.store_3_pull s,
    kernel_streamCollide.store_4_pull s, kernel_streamCollide.store_5_pull s,
    kernel_streamCollide.store_6_pull s, kernel_streamCollide.store_7_pull s,
    kernel_streamCollide.store_8_pull s, kernel_streamCollide.store_9_pull s,
    kernel_streamCollide.store_10_pull s, kernel_streamCollide.store_11_pull s,
    kernel_streamCollide.store_12_pull s, kernel_streamCollide.store_13_pull s,
    kernel_streamCollide.store_14_pull s, kernel_streamCollide.store_15_pull s,
    kernel_streamCollide.store_16_pull s, kernel_streamCollide.store_17_pull s,
    kernel_streamCollide.store_18_pull s]

end FluctuatingMRTLatticeModel

/-! ## The AVX loop bodies, local by local and lane by lane, against the scalar ones -/

theorem lane_sqrt (s : Site K) (j : Fin 4) : (lane s j).sqrt = s.sqrt := rfl

theorem lane_philox_double2 (s : Site K) (j : Fin 4) : (lane s j).philox_double2 = s.philox_double2 := rfl

theorem lane__data_force (s : Site K) (j : Fin 4) : (lane s j)._data_force = s._data_force := rfl

theorem lane__data_pdfs (s : Site K) (j : Fin 4) : (lane s j)._data_pdfs = s._data_pdfs := rfl

theorem lane_block_offset_0 (s : Site K) (j : Fin 4) : (lane s j).block_offset_0 = s.block_offset_0 := rfl

theorem lane_block_offset_1 (s : Site K) (j : Fin 4) : (lane s j).block_offset_1 = s.block_offset_1 := rfl

theorem lane_block_offset_2 (s : Site K) (j : Fin 4) : (lane s j).block_offset_2 = s.block_offset_2 := rfl

theorem lane_kT (s : Site K) (j : Fin 4) : (lane s j).kT = s.kT := rfl

theorem lane_omega_bulk (s : Site K) (j : Fin 4) : (lane s j).omega_bulk = s.omega_bulk := rfl

theorem lane_omega_even (s : Site K) (j : Fin 4) : (lane s j).omega_even = s.omega_even := rfl

theorem lane_omega_odd (s : Site K) (j : Fin 4) : (lane s j).omega_odd = s.omega_odd := rfl

theorem lane_omega_shear (s : Site K) (j : Fin 4) : (lane s j).omega_shear = s.omega_shear := rfl

theorem lane_seed (s : Site K) (j : Fin 4) : (lane s j).seed = s.seed := rfl

theorem lane_time_step (s : Site K) (j : Fin 4) : (lane s j).time_step = s.time_step := rfl

theorem lane_ctr_0 (s : Site K) (j : Fin 4) : (lane s j).ctr_0 = s.ctr_0 + ((j : Nat) : Int) := rfl

theorem lane_ctr_1 (s : Site K) (j : Fin 4) : (lane s j).ctr_1 = s.ctr_1 := rfl

theorem lane_ctr_2 (s : Site K) (j : Fin 4) : (lane s j).ctr_2 = s.ctr_2 := rfl

namespace FluctuatingMRTLatticeModelAvx

theorem kernel_collide.xi_40_lane (s : Site K) (j : Fin 4) :
    kernel_collide.xi_40 s = FluctuatingMRTLatticeModel.kernel_collide.xi_40 (lane s j) := by
  simp only [
    kernel_collide.xi_40, FluctuatingMRTLatticeModel.kernel_collide.xi_40, lane_omega_bulk s j] <;>
  ring

theorem kernel_collide.xi_51_lane (s : Site K) (j : Fin 4) :
    kernel_collide.xi_51 s = FluctuatingMRTLatticeModel.kernel_collide.xi_51 (lane s j) := by
  simp only [
    kernel_collide.xi_51, FluctuatingMRTLatticeModel.kernel_collide.xi_51, lane_omega_shear s j] <;>
  ring

theorem kernel_collide.xi_52_lane (s : Site K) (j : Fin 4) :
    kernel_collide.xi_52 s = FluctuatingMRTLatticeModel.kernel_collide.xi_52 (lane s j) := by
  simp only [
    kernel_collide.xi_52, FluctuatingMRTLatticeModel.kernel_collide.xi_52,
    kernel_collide.xi_51_lane s j] <;>
  ring

theorem kernel_collide.xi_53_lane (s : Site K) (j : Fin 4) :
    kernel_collide.xi_53 s = FluctuatingMRTLatticeModel.kernel_collide.xi_53 (lane s j) := by
  simp only [
    kernel_collide.xi_53, FluctuatingMRTLatticeModel.kernel_collide.xi_53,
    kernel_collide.xi_52_lane s j] <;>
  ring

theorem kernel_collide.xi_58_lane (s : Site K) (j : Fin 4) :
    kernel_collide.xi_58 s = FluctuatingMRTLatticeModel.kernel_collide.xi_58 (lane s j) := by
  simp only [
    kernel_collide.xi_58, FluctuatingMRTLatticeModel.kernel_collide.xi_58,
    kernel_collide.xi_52_lane s j] <;>
  ring

theorem kernel_collide.xi_63_lane (s : Site K) (j : Fin 4) :
    kernel_collide.xi_63 s = FluctuatingMRTLatticeModel.kernel_collide.xi_63 (lane s j) := by
  simp only [
    kernel_collide.xi_63, FluctuatingMRTLatticeModel.kernel_collide.xi_63,
    kernel_collide.xi_52_lane s j] <;>
  ring

theorem kernel_collide.xi_73_lane (s : Site K) (j : Fin 4) :
    kernel_collide.xi_73 s = FluctuatingMRTLatticeModel.kernel_collide.xi_73 (lane s j) := by
  simp only [
    kernel_collide.xi_73, FluctuatingMRTLatticeModel.kernel_collide.xi_73,
    kernel_collide.xi_52_lane s j] <;>
  ring

theorem kernel_collide.xi_78_lane (s : Site K) (j : Fin 4) :
    kernel_collide.xi_78 s = FluctuatingMRTLatticeModel.kernel_collide.xi_78 (lane s j) := by
  simp only [
    kernel_collide.xi_78, FluctuatingMRTLatticeModel.kernel_collide.xi_78,
    kernel_collide.xi_52_lane s j] <;>
  ring

theorem kernel_collide.xi_105_lane (s : Site K) (j : Fin 4) :
    kernel_collide.xi_105 s = FluctuatingMRTLatticeModel.kernel_collide.xi_105 (lane s j) := by
  simp only [
    kernel_collide.xi_105, FluctuatingMRTLatticeModel.kernel_collide.xi_105] <;>
  ring

theorem kernel_collide.xi_129_lane (s : Site K) (j : Fin 4) :
    kernel_collide.xi_129 s = FluctuatingMRTLatticeModel.kernel_collide.xi_129 (lane s j) := by
  simp only [
    kernel_collide.xi_129, FluctuatingMRTLatticeModel.kernel_collide.xi_129, lane_omega_odd s j] <;>
  ring

theorem kernel_collide.xi_144_lane (s : Site K) (j : Fin 4) :
    kernel_collide.xi_144 s = FluctuatingMRTLatticeModel.kernel_collide.xi_144 (lane s j) := by
  simp only [
    kernel_collide.xi_144, FluctuatingMRTLatticeModel.kernel_collide.xi_144, lane_omega_odd s j] <;>
  ring

theorem kernel_collide.xi_207_lane (s : Site K) (j : Fin 4) :
    kernel_collide.xi_207 s = FluctuatingMRTLatticeModel.kernel_collide.xi_207 (lane s j) := by
  simp only [
    kernel_collide.xi_207, FluctuatingMRTLatticeModel.kernel_collide.xi_207, lane_omega_shear s j] <;>
  ring

theorem kernel_collide.xi_222_lane (s : Site K) (j : Fin 4) :
    kernel_collide.xi_222 s = FluctuatingMRTLatticeModel.kernel_collide.xi_222 (lane s j) := by
  simp only [
    kernel_collide.xi_222, FluctuatingMRTLatticeModel.kernel_collide.xi_222, lane_omega_odd s j] <;>
  ring

theorem kernel_collide.xi_224_lane (s : Site K) (j : Fin 4) :
    kernel_collide.xi_224 s = FluctuatingMRTLatticeModel.kernel_collide.xi_224 (lane s j) := by
  simp only [
    kernel_collide.xi_224, FluctuatingMRTLatticeModel.kernel_collide.xi_224, lane_omega_odd s j] <;>
  ring

theorem kernel_collide.rr_0_lane (s : Site K) (j : Fin 4) :
    kernel_collide.rr_0 s = FluctuatingMRTLatticeModel.kernel_collide.rr_0 (lane s j) := by
  simp only [
    kernel_collide.rr_0, FluctuatingMRTLatticeModel.kernel_collide.rr_0] <;>
  ring

theorem kernel_collide.xi_133_lane (s : Site K) (j : Fin 4) :
    kernel_collide.xi_133 s = FluctuatingMRTLatticeModel.kernel_collide.xi_133 (lane s j) := by
  simp only [
    kernel_collide.xi_133, FluctuatingMRTLatticeModel.kernel_collide.xi_133,
    kernel_collide.rr_0_lane s j] <;>
  ring

theorem kernel_collide.xi_197_lane (s : Site K) (j : Fin 4) :
    kernel_collide.xi_197 s = FluctuatingMRTLatticeModel.kernel_collide.xi_197 (lane s j) := by
  simp only [
    kernel_collide.xi_197, FluctuatingMRTLatticeModel.kernel_collide.xi_197,
    kernel_collide.rr_0_lane s j] <;>
  ring

theorem kernel_collide.xi_259_lane (s : Site K) (j : Fin 4) :
    kernel_collide.xi_259 s j = FluctuatingMRTLatticeModel.kernel_collide.xi_259 (lane s j) := by
  simp only [
    kernel_collide.xi_259, FluctuatingMRTLatticeModel.kernel_collide.xi_259, lane__data_pdfs s j,
    lane_ctr_0 s j, lane_ctr_1 s j, lane_ctr_2 s j,
    mm256_add_pd_apply, mm256_mul_pd_apply, mm256_div_pd_apply, mm256_sqrt_pd_apply,
    mm256_set_pd_apply, mm256_load_pd_apply, mm256_loadu_pd_add, mm256_loadu_pd_sub] <;>
  ring

theorem kernel_collide.xi_260_lane (s : Site K) (j : Fin 4) :
    kernel_collide.xi_260 s j = FluctuatingMRTLatticeModel.kernel_collide.xi_260 (lane s j) := by
  simp only [
    kernel_collide.xi_260, FluctuatingMRTLatticeModel.kernel_collide.xi_260, lane__data_pdfs s j,
    lane_ctr_0 s j, lane_ctr_1 s j, lane_ctr_2 s j,
    mm256_add_pd_apply, mm256_mul_pd_apply, mm256_div_pd_apply, mm256_sqrt_pd_apply,
    mm256_set_pd_apply, mm256_load_pd_apply, mm256_loadu_pd_add, mm256_loadu_pd_sub] <;>
  ring

theorem kernel_collide.xi_261_lane (s : Site K) (j : Fin 4) :
    kernel_collide.xi_261 s j = FluctuatingMRTLatticeModel.kernel_collide.xi_261 (lane s j) := by
  simp only [
    kernel_collide.xi_261, FluctuatingMRTLatticeModel.kernel_collide.xi_261, lane__data_pdfs s j,
    lane_ctr_0 s j, lane_ctr_1 s j, lane_ctr_2 s j,
    mm256_add_pd_apply, mm256_mul_pd_apply, mm256_div_pd_apply, mm256_sqrt_pd_apply,
    mm256_set_pd_apply, mm256_load_pd_apply, mm256_loadu_pd_add, mm256_loadu_pd_sub] <;>
  ring

theorem kernel_collide.xi_262_lane (s : Site K) (j : Fin 4) :
    kernel_collide.xi_262 s j = FluctuatingMRTLatticeModel.kernel_collide.xi_262 (lane s j) := by
  simp only [
    kernel_collide.xi_262, FluctuatingMRTLatticeModel.kernel_collide.xi_262, lane__data_pdfs s j,
    lane_ctr_0 s j, lane_ctr_1 s j, lane_ctr_2 s j,
    mm256_add_pd_apply, mm256_mul_pd_apply, mm256_div_pd_apply, mm256_sqrt_pd_apply,
    mm256_set_pd_apply, mm256_load_pd_apply, mm256_loadu_pd_add, mm256_loadu_pd_sub] <;>
  ring

theorem kernel_collide.xi_263_lane (s : Site K) (j : Fin 4) :
    kernel_collide.xi_263 s j = FluctuatingMRTLatticeModel.kernel_collide.xi_263 (lane s j) := by
  simp only [
    kernel_collide.xi_263, FluctuatingMRTLatticeModel.kernel_collide.xi_263, lane__data_pdfs s j,
    lane_ctr_0 s j, lane_ctr_1 s j, lane_ctr_2 s j,
    mm256_add_pd_apply, mm256_mul_pd_apply, mm256_div_pd_apply, mm256_sqrt_pd_apply,
    mm256_set_pd_apply, mm256_load_pd_apply, mm256_loadu_pd_add, mm256_loadu_pd_sub] <;>
  ring

theorem kernel_collide.xi_264_lane (s : Site K) (j : Fin 4) :
    kernel_collide.xi_264 s j = FluctuatingMRTLatticeModel.kernel_collide.xi_264 (lane s j) := by
  simp only [
    kernel_collide.xi_264, FluctuatingMRTLatticeModel.kernel_collide.xi_264, lane__data_pdfs s j,
    lane_ctr_0 s j, lane_ctr_1 s j, lane_ctr_2 s j,
    mm256_add_pd_apply, mm256_mul_pd_apply, mm256_div_pd_apply, mm256_sqrt_pd_apply,
    mm256_set_pd_apply, mm256_load_pd_apply, mm256_loadu_pd_add, mm256_loadu_pd_sub] <;>
  ring

theorem kernel_collide.xi_265_lane (s : Site K) (j : Fin 4) :
    kernel_collide.xi_265 s j = FluctuatingMRTLatticeModel.kernel_collide.xi_265 (lane s j) := by
  simp only [
    kernel_collide.xi_265, FluctuatingMRTLatticeModel.kernel_collide.xi_265, lane__data_pdfs s j,
    lane_ctr_0 s j, lane_ctr_1 s j, lane_ctr_2 s j,
    mm256_add_pd_apply, mm256_mul_pd_apply, mm256_div_pd_apply, mm256_sqrt_pd_apply,
    mm256_set_pd_apply, mm256_load_pd_apply, mm256_loadu_pd_add, mm256_loadu_pd_sub] <;>
  ring

theorem kernel_collide.xi_266_lane (s : Site K) (j : Fin 4) :
    kernel_collide.xi_266 s j = FluctuatingMRTLatticeModel.kernel_collide.xi_266 (lane s j) := by
  simp only [
    kernel_collide.xi_266, FluctuatingMRTLatticeModel.kernel_collide.xi_266, lane__data_pdfs s j,
    lane_ctr_0 s j, lane_ctr_1 s j, lane_ctr_2 s j,
    mm256_add_pd_apply, mm256_mul_pd_apply, mm256_div_pd_apply, mm256_sqrt_pd_apply,
    mm256_set_pd_apply, mm256_load_pd_apply, mm256_loadu_pd_add, mm256_loadu_pd_sub] <;>
  ring

theorem kernel_collide.xi_267_lane (s : Site K) (j : Fin 4) :
    kernel_collide.xi_267 s j = FluctuatingMRTLatticeModel.kernel_collide.xi_267 (lane s j) := by
  simp only [
    kernel_collide.xi_267, FluctuatingMRTLatticeModel.kernel_collide.xi_267, lane__data_pdfs s j,
    lane_ctr_0 s j, lane_ctr_1 s j, lane_ctr_2 s j,
    mm256_add_pd_apply, mm256_mul_pd_apply, mm256_div_pd_apply, mm256_sqrt_pd_apply,
    mm256_set_pd_apply, mm256_load_pd_apply, mm256_loadu_pd_add, mm256_loadu_pd_sub] <;>
  ring

theorem kernel_collide.xi_268_lane (s : Site K) (j : Fin 4) :
    kernel_collide.xi_268 s j = FluctuatingMRTLatticeModel.kernel_collide.xi_268 (lane s j) := by
  simp only [
    kernel_collide.xi_268, FluctuatingMRTLatticeModel.kernel_collide.xi_268, lane__data_pdfs s j,
    lane_ctr_0 s j, lane_ctr_1 s j, lane_ctr_2 s j,
    mm256_add_pd_apply, mm256_mul_pd_apply, mm256_div_pd_apply, mm256_sqrt_pd_apply,
    mm256_set_pd_apply, mm256_load_pd_apply, mm256_loadu_pd_add, mm256_loadu_pd_sub] <;>
  ring

theorem kernel_collide.xi_269_lane (s : Site K) (j : Fin 4) :
    kernel_collide.xi_269 s j = FluctuatingMRTLatticeModel.kernel_collide.xi_269 (lane s j) := by
  simp only [
    kernel_collide.xi_269, FluctuatingMRTLatticeModel.kernel_collide.xi_269, lane__data_pdfs s j,
    lane_ctr_0 s j, lane_ctr_1 s j, lane_ctr_2 s j,
    mm256_add_pd_apply, mm256_mul_pd_apply, mm256_div_pd_apply, mm256_sqrt_pd_apply,
    mm256_set_pd_apply, mm256_load_pd_apply, mm256_loadu_pd_add, mm256_loadu_pd_sub] <;>
  ring

theorem kernel_collide.xi_270_lane (s : Site K) (j : Fin 4) :
    kernel_collide.xi_270 s j = FluctuatingMRTLatticeModel.kernel_collide.xi_270 (lane s j) := by
  simp only [
    kernel_collide.xi_270, FluctuatingMRTLatticeModel.kernel_collide.xi_270, lane__data_pdfs s j,
    lane_ctr_0 s j, lane_ctr_1 s j, lane_ctr_2 s j,
    mm256_add_pd_apply, mm256_mul_pd_apply, mm256_div_pd_apply, mm256_sqrt_pd_apply,
    mm256_set_pd_apply, mm256_load_pd_apply, mm256_loadu_pd_add, mm256_loadu_pd_sub] <;>
  ring

theorem kernel_collide.xi_271_lane (s : Site K) (j : Fin 4) :
    kernel_collide.xi_271 s j = FluctuatingMRTLatticeModel.kernel_collide.xi_271 (lane s j) := by
  simp only [
    kernel_collide.xi_271, FluctuatingMRTLatticeModel.kernel_collide.xi_271, lane__data_force s j,
    lane_ctr_0 s j, lane_ctr_1 s j, lane_ctr_2 s j,
    mm256_add_pd_apply, mm256_mul_pd_apply, mm256_div_pd_apply, mm256_sqrt_pd_apply,
    mm256_set_pd_apply, mm256_load_pd_apply, mm256_loadu_pd_add, mm256_loadu_pd_sub] <;>
  ring

theorem kernel_collide.xi_272_lane (s : Site K) (j : Fin 4) :
    kernel_collide.xi_272 s j = FluctuatingMRTLatticeModel.kernel_collide.xi_272 (lane s j) := by
  simp only [
    kernel_collide.xi_272, FluctuatingMRTLatticeModel.kernel_collide.xi_272, lane__data_pdfs s j,
    lane_ctr_0 s j, lane_ctr_1 s j, lane_ctr_2 s j,
    mm256_add_pd_apply, mm256_mul_pd_apply, mm256_div_pd_apply, mm256_sqrt_pd_apply,
    mm256_set_pd_apply, mm256_load_pd_apply, mm256_loadu_pd_add, mm256_loadu_pd_sub] <;>
  ring

theorem kernel_collide.xi_273_lane (s : Site K) (j : Fin 4) :
    kernel_collide.xi_273 s j = FluctuatingMRTLatticeModel.kernel_collide.xi_273 (lane s j) := by
  simp only [
    kernel_collide.xi_273, FluctuatingMRTLatticeModel.kernel_collide.xi_273, lane__data_force s j,
    lane_ctr_0 s j, lane_ctr_1 s j, lane_ctr_2 s j,
    mm256_add_pd_apply, mm256_mul_pd_apply, mm256_div_pd_apply, mm256_sqrt_pd_apply,
    mm256_set_pd_apply, mm256_load_pd_apply, mm256_loadu_pd_add, mm256_loadu_pd_sub] <;>
  ring

theorem kernel_collide.xi_274_lane (s : Site K) (j : Fin 4) :
    kernel_collide.xi_274 s j = FluctuatingMRTLatticeModel.kernel_collide.xi_274 (lane s j) := by
  simp only [
    kernel_collide.xi_274, FluctuatingMRTLatticeModel.kernel_collide.xi_274, lane__data_pdfs s j,
    lane_ctr_0 s j, lane_ctr_1 s j, lane_ctr_2 s j,
    mm256_add_pd_apply, mm256_mul_pd_apply, mm256_div_pd_apply, mm256_sqrt_pd_apply,
    mm256_set_pd_apply, mm256_load_pd_apply, mm256_loadu_pd_add, mm256_loadu_pd_sub] <;>
  ring

theorem kernel_collide.xi_275_lane (s : Site K) (j : Fin 4) :
    kernel_collide.xi_275 s j = FluctuatingMRTLatticeModel.kernel_collide.xi_275 (lane s j) := by
  simp only [
    kernel_collide.xi_275, FluctuatingMRTLatticeModel.kernel_collide.xi_275, lane__data_pdfs s j,
    lane_ctr_0 s j, lane_ctr_1 s j, lane_ctr_2 s j,
    mm256_add_pd_apply, mm256_mul_pd_apply, mm256_div_pd_apply, mm256_sqrt_pd_apply,
    mm256_set_pd_apply, mm256_load_pd_apply, mm256_loadu_pd_add, mm256_loadu_pd_sub] <;>
  ring

theorem kernel_collide.xi_276_lane (s : Site K) (j : Fin 4) :
    kernel_collide.xi_276 s j = FluctuatingMRTLatticeModel.kernel_collide.xi_276 (lane s j) := by
  simp only [
    kernel_collide.xi_276, FluctuatingMRTLatticeModel.kernel_collide.xi_276, lane__data_pdfs s j,
    lane_ctr_0 s j, lane_ctr_1 s j, lane_ctr_2 s j,
    mm256_add_pd_apply, mm256_mul_pd_apply, mm256_div_pd_apply, mm256_sqrt_pd_apply,
    mm256_set_pd_apply, mm256_load_pd_apply, mm256_loadu_pd_add, mm256_loadu_pd_sub] <;>
  ring

theorem kernel_collide.xi_277_lane (s : Site K) (j : Fin 4) :
    kernel_collide.xi_277 s j = FluctuatingMRTLatticeModel.kernel_collide.xi_277 (lane s j) := by
  simp only [
    kernel_collide.xi_277, FluctuatingMRTLatticeModel.kernel_collide.xi_277, lane__data_force s j,
    lane_ctr_0 s j, lane_ctr_1 s j, lane_ctr_2 s j,
    mm256_add_pd_apply, mm256_mul_pd_apply, mm256_div_pd_apply, mm256_sqrt_pd_apply,
    mm256_set_pd_apply, mm256_load_pd_apply, mm256_loadu_pd_add, mm256_loadu_pd_sub] <;>
  ring

theorem kernel_collide.xi_278_lane (s : Site K) (j : Fin 4) :
    kernel_collide.xi_278 s j = FluctuatingMRTLatticeModel.kernel_collide.xi_278 (lane s j) := by
  simp only [
    kernel_collide.xi_278, FluctuatingMRTLatticeModel.kernel_collide.xi_278, lane__data_pdfs s j,
    lane_ctr_0 s j, lane_ctr_1 s j, lane_ctr_2 s j,
    mm256_add_pd_apply, mm256_mul_pd_apply, mm256_div_pd_apply, mm256_sqrt_pd_apply,
    mm256_set_pd_apply, mm256_load_pd_apply, mm256_loadu_pd_add, mm256_loadu_pd_sub] <;>
  ring

theorem kernel_collide.xi_279_lane (s : Site K) (j : Fin 4) :
    kernel_collide.xi_279 s j = FluctuatingMRTLatticeModel.kernel_collide.xi_279 (lane s j) := by
  simp only [
    kernel_collide.xi_279, FluctuatingMRTLatticeModel.kernel_collide.xi_279, lane__data_pdfs s j,
    lane_ctr_0 s j, lane_ctr_1 s j, lane_ctr_2 s j,
    mm256_add_pd_apply, mm256_mul_pd_apply, mm256_div_pd_apply, mm256_sqrt_pd_apply,
    mm256_set_pd_apply, mm256_load_pd_apply, mm256_loadu_pd_add, mm256_loadu_pd_sub] <;>
  ring

theorem kernel_collide.xi_280_lane (s : Site K) (j : Fin 4) :
    kernel_collide.xi_280 s j = FluctuatingMRTLatticeModel.kernel_collide.xi_280 (lane s j) := by
  simp only [
    kernel_collide.xi_280, FluctuatingMRTLatticeModel.kernel_collide.xi_280, lane__data_pdfs s j,
    lane_ctr_0 s j, lane_ctr_1 s j, lane_ctr_2 s j,
    mm256_add_pd_apply, mm256_mul_pd_apply, mm256_div_pd_apply, mm256_sqrt_pd_apply,
    mm256_set_pd_apply, mm256_load_pd_apply, mm256_loadu_pd_add, mm256_loadu_pd_sub] <;>
  ring

theorem kernel_collide.random_7_lane (s : Site K) (j : Fin 4) :
    ((kernel_collide.random_7 s).1 j, (kernel_collide.random_7 s).2 j) = FluctuatingMRTLatticeModel.kernel_collide.random_7 (lane s j) := by
  simp only [
    kernel_collide.random_7, FluctuatingMRTLatticeModel.kernel_collide.random_7,
    lane_philox_double2 s j, lane_block_offset_0 s j, lane_block_offset_1 s j, lane_block_offset_2
    s j, lane_seed s j, lane_time_step s j, lane_ctr_0 s j, lane_ctr_1 s j, lane_ctr_2 s j,
    philox_double2_m256, lane_counter, Prod.mk.eta]

theorem kernel_collide.random_7_0_lane (s : Site K) (j : Fin 4) :
    kernel_collide.random_7_0 s j = FluctuatingMRTLatticeModel.kernel_collide.random_7_0 (lane s j) := by
  rw [kernel_collide.random_7_0, FluctuatingMRTLatticeModel.kernel_collide.random_7_0, ← kernel_collide.random_7_lane s j]

theorem kernel_collide.random_7_1_lane (s : Site K) (j : Fin 4) :
    kernel_collide.random_7_1 s j = FluctuatingMRTLatticeModel.kernel_collide.random_7_1 (lane s j) := by
  rw [kernel_collide.random_7_1, FluctuatingMRTLatticeModel.kernel_collide.random_7_1, ← kernel_collide.random_7_lane s j]

theorem kernel_collide.random_6_lane (s : Site K) (j : Fin 4) :
    ((kernel_collide.random_6 s).1 j, (kernel_collide.random_6 s).2 j) = FluctuatingMRTLatticeModel.kernel_collide.random_6 (lane s j) := by
  simp only [
    kernel_collide.random_6, FluctuatingMRTLatticeModel.kernel_collide.random_6,
    lane_philox_double2 s j, lane_block_offset_0 s j, lane_block_offset_1 s j, lane_block_offset_2
    s j, lane_seed s j, lane_time_step s j, lane_ctr_0 s j, lane_ctr_1 s j, lane_ctr_2 s j,
    philox_double2_m256, lane_counter, Prod.mk.eta]

theorem kernel_collide.random_6_0_lane (s : Site K) (j : Fin 4) :
    kernel_collide.random_6_0 s j = FluctuatingMRTLatticeModel.kernel_collide.random_6_0 (lane s j) := by
  rw [kernel_collide.random_6_0, FluctuatingMRTLatticeModel.kernel_collide.random_6_0, ← kernel_collide.random_6_lane s j]

theorem kernel_collide.random_6_1_lane (s : Site K) (j : Fin 4) :
    kernel_collide.random_6_1 s j = FluctuatingMRTLatticeModel.kernel_collide.random_6_1 (lane s j) := by
  rw [kernel_collide.random_6_1, FluctuatingMRTLatticeModel.kernel_collide.random_6_1, ← kernel_collide.random_6_lane s j]

theorem kernel_collide.random_5_lane (s : Site K) (j : Fin 4) :
    ((kernel_collide.random_5 s).1 j, (kernel_collide.random_5 s).2 j) = FluctuatingMRTLatticeModel.kernel_collide.random_5 (lane s j) := by
  simp only [
    kernel_collide.random_5, FluctuatingMRTLatticeModel.kernel_collide.random_5,
    lane_philox_double2 s j, lane_block_offset_0 s j, lane_block_offset_1 s j, lane_block_offset_2
    s j, lane_seed s j, lane_time_step s j, lane_ctr_0 s j, lane_ctr_1 s j, lane_ctr_2 s j,
    philox_double2_m256, lane_counter, Prod.mk.eta]

theorem kernel_collide.random_5_0_lane (s : Site K) (j : Fin 4) :
    kernel_collide.random_5_0 s j = FluctuatingMRTLatticeModel.kernel_collide.random_5_0 (lane s j) := by
  rw [kernel_collide.random_5_0, FluctuatingMRTLatticeModel.kernel_collide.random_5_0, ← kernel_collide.random_5_lane s j]

theorem kernel_collide.random_5_1_lane (s : Site K) (j : Fin 4) :
    kernel_collide.random_5_1 s j = FluctuatingMRTLatticeModel.kernel_collide.random_5_1 (lane s j) := by
  rw [kernel_collide.random_5_1, FluctuatingMRTLatticeModel.kernel_collide.random_5_1, ← kernel_collide.random_5_lane s j]

theorem kernel_collide.random_4_lane (s : Site K) (j : Fin 4) :
    ((kernel_collide.random_4 s).1 j, (kernel_collide.random_4 s).2 j) = FluctuatingMRTLatticeModel.kernel_collide.random_4 (lane s j) := by
  simp only [
    kernel_collide.random_4, FluctuatingMRTLatticeModel.kernel_collide.random_4,
    lane_philox_double2 s j, lane_block_offset_0 s j, lane_block_offset_1 s j, lane_block_offset_2
    s j, lane_seed s j, lane_time_step s j, lane_ctr_0 s j, lane_ctr_1 s j, lane_ctr_2 s j,
    philox_double2_m256, lane_counter, Prod.mk.eta]

theorem kernel_collide.random_4_0_lane (s : Site K) (j : Fin 4) :
    kernel_collide.random_4_0 s j = FluctuatingMRTLatticeModel.kernel_collide.random_4_0 (lane s j) := by
  rw [kernel_collide.random_4_0, FluctuatingMRTLatticeModel.kernel_collide.random_4_0, ← kernel_collide.random_4_lane s j]

theorem kernel_collide.random_4_1_lane (s : Site K) (j : Fin 4) :
    kernel_collide.random_4_1 s j = FluctuatingMRTLatticeModel.kernel_collide.random_4_1 (lane s j) := by
  rw [kernel_collide.random_4_1, FluctuatingMRTLatticeModel.kernel_collide.random_4_1, ← kernel_collide.random_4_lane s j]

theorem kernel_collide.random_3_lane (s : Site K) (j : Fin 4) :
    ((kernel_collide.random_3 s).1 j, (kernel_collide.random_3 s).2 j) = FluctuatingMRTLatticeModel.kernel_collide.random_3 (lane s j) := by
  simp only [
    kernel_collide.random_3, FluctuatingMRTLatticeModel.kernel_collide.random_3,
    lane_philox_double2 s j, lane_block_offset_0 s j, lane_block_offset_1 s j, lane_block_offset_2
    s j, lane_seed s j, lane_time_step s j, lane_ctr_0 s j, lane_ctr_1 s j, lane_ctr_2 s j,
    philox_double2_m256, lane_counter, Prod.mk.eta]

theorem kernel_collide.random_3_0_lane (s : Site K) (j : Fin 4) :
    kernel_collide.random_3_0 s j = FluctuatingMRTLatticeModel.kernel_collide.random_3_0 (lane s j) := by
  rw [kernel_collide.random_3_0, FluctuatingMRTLatticeModel.kernel_collide.random_3_0, ← kernel_collide.random_3_lane s j]

theorem kernel_collide.random_3_1_lane (s : Site K) (j : Fin 4) :
    kernel_collide.random_3_1 s j = FluctuatingMRTLatticeModel.kernel_collide.random_3_1 (lane s j) := by
  rw [kernel_collide.random_3_1, FluctuatingMRTLatticeModel.kernel_collide.random_3_1, ← kernel_collide.random_3_lane s j]

theorem kernel_collide.random_2_lane (s : Site K) (j : Fin 4) :
    ((kernel_collide.random_2 s).1 j, (kernel_collide.random_2 s).2 j) = FluctuatingMRTLatticeModel.kernel_collide.random_2 (lane s j) := by
  simp only [
    kernel_collide.random_2, FluctuatingMRTLatticeModel.kernel_collide.random_2,
    lane_philox_double2 s j, lane_block_offset_0 s j, lane_block_offset_1 s j, lane_block_offset_2
    s j, lane_seed s j, lane_time_step s j, lane_ctr_0 s j, lane_ctr_1 s j, lane_ctr_2 s j,
    philox_double2_m256, lane_counter, Prod.mk.eta]

theorem kernel_collide.random_2_0_lane (s : Site K) (j : Fin 4) :
    kernel_collide.random_2_0 s j = FluctuatingMRTLatticeModel.kernel_collide.random_2_0 (lane s j) := by
  rw [kernel_collide.random_2_0, FluctuatingMRTLatticeModel.kernel_collide.random_2_0, ← kernel_collide.random_2_lane s j]

theorem kernel_collide.random_2_1_lane (s : Site K) (j : Fin 4) :
    kernel_collide.random_2_1 s j = FluctuatingMRTLatticeModel.kernel_collide.random_2_1 (lane s j) := by
  rw [kernel_collide.random_2_1, FluctuatingMRTLatticeModel.kernel_collide.random_2_1, ← kernel_collide.random_2_lane s j]

theorem kernel_collide.random_1_lane (s : Site K) (j : Fin 4) :
    ((kernel_collide.random_1 s).1 j, (kernel_collide.random_1 s).2 j) = FluctuatingMRTLatticeModel.kernel_collide.random_1 (lane s j) := by
  simp only [
    kernel_collide.random_1, FluctuatingMRTLatticeModel.kernel_collide.random_1,
    lane_philox_double2 s j, lane_block_offset_0 s j, lane_block_offset_1 s j, lane_block_offset_2
    s j, lane_seed s j, lane_time_step s j, lane_ctr_0 s j, lane_ctr_1 s j, lane_ctr_2 s j,
    philox_double2_m256, lane_counter, Prod.mk.eta]

theorem kernel_collide.random_1_0_lane (s : Site K) (j : Fin 4) :
    kernel_collide.random_1_0 s j = FluctuatingMRTLatticeModel.kernel_collide.random_1_0 (lane s j) := by
  rw [kernel_collide.random_1_0, FluctuatingMRTLatticeModel.kernel_collide.random_1_0, ← kernel_collide.random_1_lane s j]

theorem kernel_collide.random_1_1_lane (s : Site K) (j : Fin 4) :
    kernel_collide.random_1_1 s j = FluctuatingMRTLatticeModel.kernel_collide.random_1_1 (lane s j) := by
  rw [kernel_collide.random_1_1, FluctuatingMRTLatticeModel.kernel_collide.random_1_1, ← kernel_collide.random_1_lane s j]

theorem kernel_collide.random_0_lane (s : Site K) (j : Fin 4) :
    ((kernel_collide.random_0 s).1 j, (kernel_collide.random_0 s).2 j) = FluctuatingMRTLatticeModel.kernel_collide.random_0 (lane s j) := by
  simp only [
    kernel_collide.random_0, FluctuatingMRTLatticeModel.kernel_collide.random_0,
    lane_philox_double2 s j, lane_block_offset_0 s j, lane_block_offset_1 s j, lane_block_offset_2
    s j, lane_seed s j, lane_time_step s j, lane_ctr_0 s j, lane_ctr_1 s j, lane_ctr_2 s j,
    philox_double2_m256, lane_counter, Prod.mk.eta]

theorem kernel_collide.random_0_0_lane (s : Site K) (j : Fin 4) :
    kernel_collide.random_0_0 s j = FluctuatingMRTLatticeModel.kernel_collide.random_0_0 (lane s j) := by
  rw [kernel_collide.random_0_0, FluctuatingMRTLatticeModel.kernel_collide.random_0_0, ← kernel_collide.random_0_lane s j]

theorem kernel_collide.random_0_1_lane (s : Site K) (j : Fin 4) :
    kernel_collide.random_0_1 s j = FluctuatingMRTLatticeModel.kernel_collide.random_0_1 (lane s j) := by
  rw [kernel_collide.random_0_1, FluctuatingMRTLatticeModel.kernel_collide.random_0_1, ← kernel_collide.random_0_lane s j]

theorem kernel_collide.xi_0_lane (s : Site K) (j : Fin 4) :
    kernel_collide.xi_0 s j = FluctuatingMRTLatticeModel.kernel_collide.xi_0 (lane s j) := by
  simp only [
    kernel_collide.xi_0, FluctuatingMRTLatticeModel.kernel_collide.xi_0,
    kernel_collide.xi_259_lane s j, kernel_collide.xi_265_lane s j,
    mm256_add_pd_apply, mm256_mul_pd_apply, mm256_div_pd_apply, mm256_sqrt_pd_apply,
    mm256_set_pd_apply, mm256_load_pd_apply, mm256_loadu_pd_add, mm256_loadu_pd_sub] <;>
  ring

theorem kernel_collide.xi_1_lane (s : Site K) (j : Fin 4) :
    kernel_collide.xi_1 s j = FluctuatingMRTLatticeModel.kernel_collide.xi_1 (lane s j) := by
  simp only [
    kernel_collide.xi_1, FluctuatingMRTLatticeModel.kernel_collide.xi_1,
    kernel_collide.xi_262_lane s j, kernel_collide.xi_272_lane s j,
    mm256_add_pd_apply, mm256_mul_pd_apply, mm256_div_pd_apply, mm256_sqrt_pd_apply,
    mm256_set_pd_apply, mm256_load_pd_apply, mm256_loadu_pd_add, mm256_loadu_pd_sub] <;>
  ring

theorem kernel_collide.xi_2_lane (s : Site K) (j : Fin 4) :
    kernel_collide.xi_2 s j = FluctuatingMRTLatticeModel.kernel_collide.xi_2 (lane s j) := by
  simp only [
    kernel_collide.xi_2, FluctuatingMRTLatticeModel.kernel_collide.xi_2,
    kernel_collide.xi_266_lane s j, kernel_collide.xi_0_lane s j, kernel_collide.xi_1_lane s j,
    mm256_add_pd_apply, mm256_mul_pd_apply, mm256_div_pd_apply, mm256_sqrt_pd_apply,
    mm256_set_pd_apply, mm256_load_pd_apply, mm256_loadu_pd_add, mm256_loadu_pd_sub] <;>
  ring

theorem kernel_collide.xi_3_lane (s : Site K) (j : Fin 4) :
    kernel_collide.xi_3 s j = FluctuatingMRTLatticeModel.kernel_collide.xi_3 (lane s j) := by
  simp only [
    kernel_collide.xi_3, FluctuatingMRTLatticeModel.kernel_collide.xi_3,
    kernel_collide.xi_264_lane s j, kernel_collide.xi_270_lane s j,
    mm256_add_pd_apply, mm256_mul_pd_apply, mm256_div_pd_apply, mm256_sqrt_pd_apply,
    mm256_set_pd_apply, mm256_load_pd_apply, mm256_loadu_pd_add, mm256_loadu_pd_sub] <;>
  ring

theorem kernel_collide.xi_4_lane (s : Site K) (j : Fin 4) :
    kernel_collide.xi_4 s j = FluctuatingMRTLatticeModel.kernel_collide.xi_4 (lane s j) := by
  simp only [
    kernel_collide.xi_4, FluctuatingMRTLatticeModel.kernel_collide.xi_4,
    kernel_collide.xi_260_lane s j, kernel_collide.xi_3_lane s j,
    mm256_add_pd_apply, mm256_mul_pd_apply, mm256_div_pd_apply, mm256_sqrt_pd_apply,
    mm256_set_pd_apply, mm256_load_pd_apply, mm256_loadu_pd_add, mm256_loadu_pd_sub] <;>
  ring

theorem kernel_collide.xi_5_lane (s : Site K) (j : Fin 4) :
    kernel_collide.xi_5 s j = FluctuatingMRTLatticeModel.kernel_collide.xi_5 (lane s j) := by
  simp only [
    kernel_collide.xi_5, FluctuatingMRTLatticeModel.kernel_collide.xi_5,
    kernel_collide.xi_269_lane s j, kernel_collide.xi_4_lane s j,
    mm256_add_pd_apply, mm256_mul_pd_apply, mm256_div_pd_apply, mm256_sqrt_pd_apply,
    mm256_set_pd_apply, mm256_load_pd_apply, mm256_loadu_pd_add, mm256_loadu_pd_sub] <;>
  ring

theorem kernel_collide.xi_6_lane (s : Site K) (j : Fin 4) :
    kernel_collide.xi_6 s j = FluctuatingMRTLatticeModel.kernel_collide.xi_6 (lane s j) := by
  simp only [
    kernel_collide.xi_6, FluctuatingMRTLatticeModel.kernel_collide.xi_6,
    kernel_collide.xi_261_lane s j, kernel_collide.xi_279_lane s j,
    mm256_add_pd_apply, mm256_mul_pd_apply, mm256_div_pd_apply, mm256_sqrt_pd_apply,
    mm256_set_pd_apply, mm256_load_pd_apply, mm256_loadu_pd_add, mm256_loadu_pd_sub] <;>
  ring

theorem kernel_collide.xi_7_lane (s : Site K) (j : Fin 4) :
    kernel_collide.xi_7 s j = FluctuatingMRTLatticeModel.kernel_collide.xi_7 (lane s j) := by
  simp only [
    kernel_collide.xi_7, FluctuatingMRTLatticeModel.kernel_collide.xi_7,
    kernel_collide.xi_275_lane s j, kernel_collide.xi_6_lane s j,
    mm256_add_pd_apply, mm256_mul_pd_apply, mm256_div_pd_apply, mm256_sqrt_pd_apply,
    mm256_set_pd_apply, mm256_load_pd_apply, mm256_loadu_pd_add, mm256_loadu_pd_sub] <;>
  ring

theorem kernel_collide.xi_8_lane (s : Site K) (j : Fin 4) :
    kernel_collide.xi_8 s j = FluctuatingMRTLatticeModel.kernel_collide.xi_8 (lane s j) := by
  simp only [
    kernel_collide.xi_8, FluctuatingMRTLatticeModel.kernel_collide.xi_8,
    kernel_collide.xi_268_lane s j, kernel_collide.xi_274_lane s j,
    mm256_add_pd_apply, mm256_mul_pd_apply, mm256_div_pd_apply, mm256_sqrt_pd_apply,
    mm256_set_pd_apply, mm256_load_pd_apply, mm256_loadu_pd_add, mm256_loadu_pd_sub] <;>
  ring

theorem kernel_collide.xi_9_lane (s : Site K) (j : Fin 4) :
    kernel_collide.xi_9 s j = FluctuatingMRTLatticeModel.kernel_collide.xi_9 (lane s j) := by
  simp only [
    kernel_collide.xi_9, FluctuatingMRTLatticeModel.kernel_collide.xi_9,
    kernel_collide.xi_278_lane s j, kernel_collide.xi_280_lane s j,
    mm256_add_pd_apply, mm256_mul_pd_apply, mm256_div_pd_apply, mm256_sqrt_pd_apply,
    mm256_set_pd_apply, mm256_load_pd_apply, mm256_loadu_pd_add, mm256_loadu_pd_sub] <;>
  ring

theorem kernel_collide.xi_10_lane (s : Site K) (j : Fin 4) :
    kernel_collide.xi_10 s j = FluctuatingMRTLatticeModel.kernel_collide.xi_10 (lane s j) := by
  simp only [
    kernel_collide.xi_10, FluctuatingMRTLatticeModel.kernel_collide.xi_10,
    kernel_collide.xi_267_lane s j, kernel_collide.xi_276_lane s j,
    mm256_add_pd_apply, mm256_mul_pd_apply, mm256_div_pd_apply, mm256_sqrt_pd_apply,
    mm256_set_pd_apply, mm256_load_pd_apply, mm256_loadu_pd_add, mm256_loadu_pd_sub] <;>
  ring

theorem kernel_collide.xi_12_lane (s : Site K) (j : Fin 4) :
    kernel_collide.xi_12 s j = FluctuatingMRTLatticeModel.kernel_collide.xi_12 (lane s j) := by
  simp only [
    kernel_collide.xi_12, FluctuatingMRTLatticeModel.kernel_collide.xi_12,
    kernel_collide.xi_276_lane s j,
    mm256_add_pd_apply, mm256_mul_pd_apply, mm256_div_pd_apply, mm256_sqrt_pd_apply,
    mm256_set_pd_apply, mm256_load_pd_apply, mm256_loadu_pd_add, mm256_loadu_pd_sub] <;>
  ring

theorem kernel_collide.xi_13_lane (s : Site K) (j : Fin 4) :
    kernel_collide.xi_13 s j = FluctuatingMRTLatticeModel.kernel_collide.xi_13 (lane s j) := by
  simp only [
    kernel_collide.xi_13, FluctuatingMRTLatticeModel.kernel_collide.xi_13,
    kernel_collide.xi_268_lane s j,
    mm256_add_pd_apply, mm256_mul_pd_apply, mm256_div_pd_apply, mm256_sqrt_pd_apply,
    mm256_set_pd_apply, mm256_load_pd_apply, mm256_loadu_pd_add, mm256_loadu_pd_sub] <;>
  ring

theorem kernel_collide.xi_14_lane (s : Site K) (j : Fin 4) :
    kernel_collide.xi_14 s j = FluctuatingMRTLatticeModel.kernel_collide.xi_14 (lane s j) := by
  simp only [
    kernel_collide.xi_14, FluctuatingMRTLatticeModel.kernel_collide.xi_14,
    kernel_collide.xi_12_lane s j, kernel_collide.xi_13_lane s j,
    mm256_add_pd_apply, mm256_mul_pd_apply, mm256_div_pd_apply, mm256_sqrt_pd_apply,
    mm256_set_pd_apply, mm256_load_pd_apply, mm256_loadu_pd_add, mm256_loadu_pd_sub] <;>
  ring

theorem kernel_collide.xi_15_lane (s : Site K) (j : Fin 4) :
    kernel_collide.xi_15 s j = FluctuatingMRTLatticeModel.kernel_collide.xi_15 (lane s j) := by
  simp only [
    kernel_collide.xi_15, FluctuatingMRTLatticeModel.kernel_collide.xi_15,
    kernel_collide.xi_275_lane s j,
    mm256_add_pd_apply, mm256_mul_pd_apply, mm256_div_pd_apply, mm256_sqrt_pd_apply,
    mm256_set_pd_apply, mm256_load_pd_apply, mm256_loadu_pd_add, mm256_loadu_pd_sub] <;>
  ring

theorem kernel_collide.xi_16_lane (s : Site K) (j : Fin 4) :
    kernel_collide.xi_16 s j = FluctuatingMRTLatticeModel.kernel_collide.xi_16 (lane s j) := by
  simp only [
    kernel_collide.xi_16, FluctuatingMRTLatticeModel.kernel_collide.xi_16,
    kernel_collide.xi_269_lane s j,
    mm256_add_pd_apply, mm256_mul_pd_apply, mm256_div_pd_apply, mm256_sqrt_pd_apply,
    mm256_set_pd_apply, mm256_load_pd_apply, mm256_loadu_pd_add, mm256_loadu_pd_sub] <;>
  ring

theorem kernel_collide.xi_17_lane (s : Site K) (j : Fin 4) :
    kernel_collide.xi_17 s j = FluctuatingMRTLatticeModel.kernel_collide.xi_17 (lane s j) := by
  simp only [
    kernel_collide.xi_17, FluctuatingMRTLatticeModel.kernel_collide.xi_17,
    kernel_collide.xi_274_lane s j,
    mm256_add_pd_apply, mm256_mul_pd_apply, mm256_div_pd_apply, mm256_sqrt_pd_apply,
    mm256_set_pd_apply, mm256_load_pd_apply, mm256_loadu_pd_add, mm256_loadu_pd_sub] <;>
  ring

theorem kernel_collide.xi_18_lane (s : Site K) (j : Fin 4) :
    kernel_collide.xi_18 s j = FluctuatingMRTLatticeModel.kernel_collide.xi_18 (lane s j) := by
  simp only [
    kernel_collide.xi_18, FluctuatingMRTLatticeModel.kernel_collide.xi_18,
    kernel_collide.xi_16_lane s j, kernel_collide.xi_17_lane s j,
    mm256_add_pd_apply, mm256_mul_pd_apply, mm256_div_pd_apply, mm256_sqrt_pd_apply,
    mm256_set_pd_apply, mm256_load_pd_apply, mm256_loadu_pd_add, mm256_loadu_pd_sub] <;>
  ring

theorem kernel_collide.xi_19_lane (s : Site K) (j : Fin 4) :
    kernel_collide.xi_19 s j = FluctuatingMRTLatticeModel.kernel_collide.xi_19 (lane s j) := by
  simp only [
    kernel_collide.xi_19, FluctuatingMRTLatticeModel.kernel_collide.xi_19,
    kernel_collide.xi_15_lane s j, kernel_collide.xi_18_lane s j,
    mm256_add_pd_apply, mm256_mul_pd_apply, mm256_div_pd_apply, mm256_sqrt_pd_apply,
    mm256_set_pd_apply, mm256_load_pd_apply, mm256_loadu_pd_add, mm256_loadu_pd_sub] <;>
  ring

theorem kernel_collide.xi_20_lane (s : Site K) (j : Fin 4) :
    kernel_collide.xi_20 s j = FluctuatingMRTLatticeModel.kernel_collide.xi_20 (lane s j) := by
  simp only [
    kernel_collide.xi_20, FluctuatingMRTLatticeModel.kernel_collide.xi_20,
    kernel_collide.xi_265_lane s j,
    mm256_add_pd_apply, mm256_mul_pd_apply, mm256_div_pd_apply, mm256_sqrt_pd_apply,
    mm256_set_pd_apply, mm256_load_pd_apply, mm256_loadu_pd_add, mm256_loadu_pd_sub] <;>
  ring

theorem kernel_collide.xi_21_lane (s : Site K) (j : Fin 4) :
    kernel_collide.xi_21 s j = FluctuatingMRTLatticeModel.kernel_collide.xi_21 (lane s j) := by
  simp only [
    kernel_collide.xi_21, FluctuatingMRTLatticeModel.kernel_collide.xi_21,
    kernel_collide.xi_259_lane s j, kernel_collide.xi_20_lane s j,
    mm256_add_pd_apply, mm256_mul_pd_apply, mm256_div_pd_apply, mm256_sqrt_pd_apply,
    mm256_set_pd_apply, mm256_load_pd_apply, mm256_loadu_pd_add, mm256_loadu_pd_sub] <;>
  ring

theorem kernel_collide.xi_22_lane (s : Site K) (j : Fin 4) :
    kernel_collide.xi_22 s j = FluctuatingMRTLatticeModel.kernel_collide.xi_22 (lane s j) := by
  simp only [
    kernel_collide.xi_22, FluctuatingMRTLatticeModel.kernel_collide.xi_22,
    kernel_collide.xi_279_lane s j,
    mm256_add_pd_apply, mm256_mul_pd_apply, mm256_div_pd_apply, mm256_sqrt_pd_apply,
    mm256_set_pd_apply, mm256_load_pd_apply, mm256_loadu_pd_add, mm256_loadu_pd_sub] <;>
  ring

theorem kernel_collide.xi_23_lane (s : Site K) (j : Fin 4) :
    kernel_collide.xi_23 s j = FluctuatingMRTLatticeModel.kernel_collide.xi_23 (lane s j) := by
  simp only [
    kernel_collide.xi_23, FluctuatingMRTLatticeModel.kernel_collide.xi_23,
    kernel_collide.xi_278_lane s j,
    mm256_add_pd_apply, mm256_mul_pd_apply, mm256_div_pd_apply, mm256_sqrt_pd_apply,
    mm256_set_pd_apply, mm256_load_pd_apply, mm256_loadu_pd_add, mm256_loadu_pd_sub] <;>
  ring

theorem kernel_collide.xi_24_lane (s : Site K) (j : Fin 4) :
    kernel_collide.xi_24 s j = FluctuatingMRTLatticeModel.kernel_collide.xi_24 (lane s j) := by
  simp only [
    kernel_collide.xi_24, FluctuatingMRTLatticeModel.kernel_collide.xi_24,
    kernel_collide.xi_280_lane s j,
    mm256_add_pd_apply, mm256_mul_pd_apply, mm256_div_pd_apply, mm256_sqrt_pd_apply,
    mm256_set_pd_apply, mm256_load_pd_apply, mm256_loadu_pd_add, mm256_loadu_pd_sub] <;>
  ring

theorem kernel_collide.xi_25_lane (s : Site K) (j : Fin 4) :
    kernel_collide.xi_25 s j = FluctuatingMRTLatticeModel.kernel_collide.xi_25 (lane s j) := by
  simp only [
    kernel_collide.xi_25, FluctuatingMRTLatticeModel.kernel_collide.xi_25,
    kernel_collide.xi_22_lane s j, kernel_collide.xi_23_lane s j, kernel_collide.xi_24_lane s j,
    mm256_add_pd_apply, mm256_mul_pd_apply, mm256_div_pd_apply, mm256_sqrt_pd_apply,
    mm256_set_pd_apply, mm256_load_pd_apply, mm256_loadu_pd_add, mm256_loadu_pd_sub] <;>
  ring

theorem kernel_collide.xi_26_lane (s : Site K) (j : Fin 4) :
    kernel_collide.xi_26 s j = FluctuatingMRTLatticeModel.kernel_collide.xi_26 (lane s j) := by
  simp only [
    kernel_collide.xi_26, FluctuatingMRTLatticeModel.kernel_collide.xi_26,
    kernel_collide.xi_262_lane s j,
    mm256_add_pd_apply, mm256_mul_pd_apply, mm256_div_pd_apply, mm256_sqrt_pd_apply,
    mm256_set_pd_apply, mm256_load_pd_apply, mm256_loadu_pd_add, mm256_loadu_pd_sub] <;>
  ring

theorem kernel_collide.xi_27_lane (s : Site K) (j : Fin 4) :
    kernel_collide.xi_27 s j = FluctuatingMRTLatticeModel.kernel_collide.xi_27 (lane s j) := by
  simp only [
    kernel_collide.xi_27, FluctuatingMRTLatticeModel.kernel_collide.xi_27,
    kernel_collide.xi_12_lane s j, kernel_collide.xi_26_lane s j,
    mm256_add_pd_apply, mm256_mul_pd_apply, mm256_div_pd_apply, mm256_sqrt_pd_apply,
    mm256_set_pd_apply, mm256_load_pd_apply, mm256_loadu_pd_add, mm256_loadu_pd_sub] <;>
  ring

theorem kernel_collide.xi_28_lane (s : Site K) (j : Fin 4) :
    kernel_collide.xi_28 s j = FluctuatingMRTLatticeModel.kernel_collide.xi_28 (lane s j) := by
  simp only [
    kernel_collide.xi_28, FluctuatingMRTLatticeModel.kernel_collide.xi_28,
    kernel_collide.xi_270_lane s j,
    mm256_add_pd_apply, mm256_mul_pd_apply, mm256_div_pd_apply, mm256_sqrt_pd_apply,
    mm256_set_pd_apply, mm256_load_pd_apply, mm256_loadu_pd_add, mm256_loadu_pd_sub] <;>
  ring

theorem kernel_collide.xi_29_lane (s : Site K) (j : Fin 4) :
    kernel_collide.xi_29 s j = FluctuatingMRTLatticeModel.kernel_collide.xi_29 (lane s j) := by
  simp only [
    kernel_collide.xi_29, FluctuatingMRTLatticeModel.kernel_collide.xi_29,
    kernel_collide.xi_267_lane s j,
    mm256_add_pd_apply, mm256_mul_pd_apply, mm256_div_pd_apply, mm256_sqrt_pd_apply,
    mm256_set_pd_apply, mm256_load_pd_apply, mm256_loadu_pd_add, mm256_loadu_pd_sub] <;>
  ring

theorem kernel_collide.xi_30_lane (s : Site K) (j : Fin 4) :
    kernel_collide.xi_30 s j = FluctuatingMRTLatticeModel.kernel_collide.xi_30 (lane s j) := by
  simp only [
    kernel_collide.xi_30, FluctuatingMRTLatticeModel.kernel_collide.xi_30,
    kernel_collide.xi_264_lane s j, kernel_collide.xi_24_lane s j, kernel_collide.xi_28_lane s j,
    kernel_collide.xi_29_lane s j,
    mm256_add_pd_apply, mm256_mul_pd_apply, mm256_div_pd_apply, mm256_sqrt_pd_apply,
    mm256_set_pd_apply, mm256_load_pd_apply, mm256_loadu_pd_add, mm256_loadu_pd_sub] <;>
  ring

theorem kernel_collide.xi_31_lane (s : Site K) (j : Fin 4) :
    kernel_collide.xi_31 s j = FluctuatingMRTLatticeModel.kernel_collide.xi_31 (lane s j) := by
  simp only [
    kernel_collide.xi_31, FluctuatingMRTLatticeModel.kernel_collide.xi_31,
    kernel_collide.xi_275_lane s j, kernel_collide.xi_276_lane s j,
    mm256_add_pd_apply, mm256_mul_pd_apply, mm256_div_pd_apply, mm256_sqrt_pd_apply,
    mm256_set_pd_apply, mm256_load_pd_apply, mm256_loadu_pd_add, mm256_loadu_pd_sub] <;>
  ring

theorem kernel_collide.xi_32_lane (s : Site K) (j : Fin 4) :
    kernel_collide.xi_32 s j = FluctuatingMRTLatticeModel.kernel_collide.xi_32 (lane s j) := by
  simp only [
    kernel_collide.xi_32, FluctuatingMRTLatticeModel.kernel_collide.xi_32,
    kernel_collide.xi_269_lane s j, kernel_collide.xi_8_lane s j, kernel_collide.xi_31_lane s j,
    mm256_add_pd_apply, mm256_mul_pd_apply, mm256_div_pd_apply, mm256_sqrt_pd_apply,
    mm256_set_pd_apply, mm256_load_pd_apply, mm256_loadu_pd_add, mm256_loadu_pd_sub] <;>
  ring

theorem kernel_collide.xi_33_lane (s : Site K) (j : Fin 4) :
    kernel_collide.xi_33 s j = FluctuatingMRTLatticeModel.kernel_collide.xi_33 (lane s j) := by
  simp only [
    kernel_collide.xi_33, FluctuatingMRTLatticeModel.kernel_collide.xi_33,
    kernel_collide.xi_274_lane s j, kernel_collide.xi_16_lane s j, kernel_collide.xi_21_lane s j,
    mm256_add_pd_apply, mm256_mul_pd_apply, mm256_div_pd_apply, mm256_sqrt_pd_apply,
    mm256_set_pd_apply, mm256_load_pd_apply, mm256_loadu_pd_add, mm256_loadu_pd_sub] <;>
  ring

theorem kernel_collide.xi_34_lane (s : Site K) (j : Fin 4) :
    kernel_collide.xi_34 s j = FluctuatingMRTLatticeModel.kernel_collide.xi_34 (lane s j) := by
  simp only [
    kernel_collide.xi_34, FluctuatingMRTLatticeModel.kernel_collide.xi_34,
    kernel_collide.xi_276_lane s j, kernel_collide.xi_26_lane s j,
    mm256_add_pd_apply, mm256_mul_pd_apply, mm256_div_pd_apply, mm256_sqrt_pd_apply,
    mm256_set_pd_apply, mm256_load_pd_apply, mm256_loadu_pd_add, mm256_loadu_pd_sub] <;>
  ring

theorem kernel_collide.xi_35_lane (s : Site K) (j : Fin 4) :
    kernel_collide.xi_35 s j = FluctuatingMRTLatticeModel.kernel_collide.xi_35 (lane s j) := by
  simp only [
    kernel_collide.xi_35, FluctuatingMRTLatticeModel.kernel_collide.xi_35,
    kernel_collide.xi_272_lane s j, kernel_collide.xi_15_lane s j,
    mm256_add_pd_apply, mm256_mul_pd_apply, mm256_div_pd_apply, mm256_sqrt_pd_apply,
    mm256_set_pd_apply, mm256_load_pd_apply, mm256_loadu_pd_add, mm256_loadu_pd_sub] <;>
  ring

theorem kernel_collide.xi_36_lane (s : Site K) (j : Fin 4) :
    kernel_collide.xi_36 s j = FluctuatingMRTLatticeModel.kernel_collide.xi_36 (lane s j) := by
  simp only [
    kernel_collide.xi_36, FluctuatingMRTLatticeModel.kernel_collide.xi_36,
    kernel_collide.xi_34_lane s j, kernel_collide.xi_35_lane s j,
    mm256_add_pd_apply, mm256_mul_pd_apply, mm256_div_pd_apply, mm256_sqrt_pd_apply,
    mm256_set_pd_apply, mm256_load_pd_apply, mm256_loadu_pd_add, mm256_loadu_pd_sub] <;>
  ring

theorem kernel_collide.xi_37_lane (s : Site K) (j : Fin 4) :
    kernel_collide.xi_37 s j = FluctuatingMRTLatticeModel.kernel_collide.xi_37 (lane s j) := by
  simp only [
    kernel_collide.xi_37, FluctuatingMRTLatticeModel.kernel_collide.xi_37,
    kernel_collide.xi_274_lane s j, kernel_collide.xi_279_lane s j, kernel_collide.xi_9_lane s j,
    mm256_add_pd_apply, mm256_mul_pd_apply, mm256_div_pd_apply, mm256_sqrt_pd_apply,
    mm256_set_pd_apply, mm256_load_pd_apply, mm256_loadu_pd_add, mm256_loadu_pd_sub] <;>
  ring

theorem kernel_collide.xi_38_lane (s : Site K) (j : Fin 4) :
    kernel_collide.xi_38 s j = FluctuatingMRTLatticeModel.kernel_collide.xi_38 (lane s j) := by
  simp only [
    kernel_collide.xi_38, FluctuatingMRTLatticeModel.kernel_collide.xi_38,
    kernel_collide.xi_280_lane s j, kernel_collide.xi_28_lane s j,
    mm256_add_pd_apply, mm256_mul_pd_apply, mm256_div_pd_apply, mm256_sqrt_pd_apply,
    mm256_set_pd_apply, mm256_load_pd_apply, mm256_loadu_pd_add, mm256_loadu_pd_sub] <;>
  ring

theorem kernel_collide.xi_39_lane (s : Site K) (j : Fin 4) :
    kernel_collide.xi_39 s j = FluctuatingMRTLatticeModel.kernel_collide.xi_39 (lane s j) := by
  simp only [
    kernel_collide.xi_39, FluctuatingMRTLatticeModel.kernel_collide.xi_39,
    kernel_collide.xi_264_lane s j, kernel_collide.xi_22_lane s j, kernel_collide.xi_38_lane s j,
    mm256_add_pd_apply, mm256_mul_pd_apply, mm256_div_pd_apply, mm256_sqrt_pd_apply,
    mm256_set_pd_apply, mm256_load_pd_apply, mm256_loadu_pd_add, mm256_loadu_pd_sub] <;>
  ring

theorem kernel_collide.xi_57_lane (s : Site K) (j : Fin 4) :
    kernel_collide.xi_57 s j = FluctuatingMRTLatticeModel.kernel_collide.xi_57 (lane s j) := by
  simp only [
    kernel_collide.xi_57, FluctuatingMRTLatticeModel.kernel_collide.xi_57,
    kernel_collide.xi_271_lane s j,
    mm256_add_pd_apply, mm256_mul_pd_apply, mm256_div_pd_apply, mm256_sqrt_pd_apply,
    mm256_set_pd_apply, mm256_load_pd_apply, mm256_loadu_pd_add, mm256_loadu_pd_sub] <;>
  ring

theorem kernel_collide.xi_65_lane (s : Site K) (j : Fin 4) :
    kernel_collide.xi_65 s j = FluctuatingMRTLatticeModel.kernel_collide.xi_65 (lane s j) := by
  simp only [
    kernel_collide.xi_65, FluctuatingMRTLatticeModel.kernel_collide.xi_65,
    kernel_collide.xi_277_lane s j,
    mm256_add_pd_apply, mm256_mul_pd_apply, mm256_div_pd_apply, mm256_sqrt_pd_apply,
    mm256_set_pd_apply, mm256_load_pd_apply, mm256_loadu_pd_add, mm256_loadu_pd_sub] <;>
  ring

theorem kernel_collide.xi_69_lane (s : Site K) (j : Fin 4) :
    kernel_collide.xi_69 s j = FluctuatingMRTLatticeModel.kernel_collide.xi_69 (lane s j) := by
  simp only [
    kernel_collide.xi_69, FluctuatingMRTLatticeModel.kernel_collide.xi_69,
    kernel_collide.xi_273_lane s j,
    mm256_add_pd_apply, mm256_mul_pd_apply, mm256_div_pd_apply, mm256_sqrt_pd_apply,
    mm256_set_pd_apply, mm256_load_pd_apply, mm256_loadu_pd_add, mm256_loadu_pd_sub] <;>
  ring

theorem kernel_collide.xi_72_lane (s : Site K) (j : Fin 4) :
    kernel_collide.xi_72 s j = FluctuatingMRTLatticeModel.kernel_collide.xi_72 (lane s j) := by
  simp only [
    kernel_collide.xi_72, FluctuatingMRTLatticeModel.kernel_collide.xi_72,
    kernel_collide.xi_271_lane s j,
    mm256_add_pd_apply, mm256_mul_pd_apply, mm256_div_pd_apply, mm256_sqrt_pd_apply,
    mm256_set_pd_apply, mm256_load_pd_apply, mm256_loadu_pd_add, mm256_loadu_pd_sub] <;>
  ring

theorem kernel_collide.xi_76_lane (s : Site K) (j : Fin 4) :
    kernel_collide.xi_76 s j = FluctuatingMRTLatticeModel.kernel_collide.xi_76 (lane s j) := by
  simp only [
    kernel_collide.xi_76, FluctuatingMRTLatticeModel.kernel_collide.xi_76,
    kernel_collide.xi_277_lane s j,
    mm256_add_pd_apply, mm256_mul_pd_apply, mm256_div_pd_apply, mm256_sqrt_pd_apply,
    mm256_set_pd_apply, mm256_load_pd_apply, mm256_loadu_pd_add, mm256_loadu_pd_sub] <;>
  ring

theorem kernel_collide.xi_80_lane (s : Site K) (j : Fin 4) :
    kernel_collide.xi_80 s j = FluctuatingMRTLatticeModel.kernel_collide.xi_80 (lane s j) := by
  simp only [
    kernel_collide.xi_80, FluctuatingMRTLatticeModel.kernel_collide.xi_80,
    kernel_collide.xi_271_lane s j,
    mm256_add_pd_apply, mm256_mul_pd_apply, mm256_div_pd_apply, mm256_sqrt_pd_apply,
    mm256_set_pd_apply, mm256_load_pd_apply, mm256_loadu_pd_add, mm256_loadu_pd_sub] <;>
  ring

theorem kernel_collide.xi_90_lane (s : Site K) (j : Fin 4) :
    kernel_collide.xi_90 s j = FluctuatingMRTLatticeModel.kernel_collide.xi_90 (lane s j) := by
  simp only [
    kernel_collide.xi_90, FluctuatingMRTLatticeModel.kernel_collide.xi_90,
    kernel_collide.xi_273_lane s j,
    mm256_add_pd_apply, mm256_mul_pd_apply, mm256_div_pd_apply, mm256_sqrt_pd_apply,
    mm256_set_pd_apply, mm256_load_pd_apply, mm256_loadu_pd_add, mm256_loadu_pd_sub] <;>
  ring

theorem kernel_collide.xi_108_lane (s : Site K) (j : Fin 4) :
    kernel_collide.xi_108 s j = FluctuatingMRTLatticeModel.kernel_collide.xi_108 (lane s j) := by
  simp only [
    kernel_collide.xi_108, FluctuatingMRTLatticeModel.kernel_collide.xi_108,
    kernel_collide.xi_263_lane s j,
    mm256_add_pd_apply, mm256_mul_pd_apply, mm256_div_pd_apply, mm256_sqrt_pd_apply,
    mm256_set_pd_apply, mm256_load_pd_apply, mm256_loadu_pd_add, mm256_loadu_pd_sub] <;>
  ring

theorem kernel_collide.xi_109_lane (s : Site K) (j : Fin 4) :
    kernel_collide.xi_109 s j = FluctuatingMRTLatticeModel.kernel_collide.xi_109 (lane s j) := by
  simp only [
    kernel_collide.xi_109, FluctuatingMRTLatticeModel.kernel_collide.xi_109,
    kernel_collide.xi_261_lane s j, kernel_collide.xi_267_lane s j, kernel_collide.xi_108_lane s j,
    mm256_add_pd_apply, mm256_mul_pd_apply, mm256_div_pd_apply, mm256_sqrt_pd_apply,
    mm256_set_pd_apply, mm256_load_pd_apply, mm256_loadu_pd_add, mm256_loadu_pd_sub] <;>
  ring

theorem kernel_collide.xi_110_lane (s : Site K) (j : Fin 4) :
    kernel_collide.xi_110 s j = FluctuatingMRTLatticeModel.kernel_collide.xi_110 (lane s j) := by
  simp only [
    kernel_collide.xi_110, FluctuatingMRTLatticeModel.kernel_collide.xi_110,
    kernel_collide.xi_260_lane s j, kernel_collide.xi_264_lane s j, kernel_collide.xi_270_lane s
    j, kernel_collide.xi_278_lane s j, kernel_collide.xi_279_lane s j, kernel_collide.xi_280_lane
    s j, kernel_collide.xi_109_lane s j, lane_omega_even s j,
    mm256_add_pd_apply, mm256_mul_pd_apply, mm256_div_pd_apply, mm256_sqrt_pd_apply,
    mm256_set_pd_apply, mm256_load_pd_apply, mm256_loadu_pd_add, mm256_loadu_pd_sub] <;>
  ring

theorem kernel_collide.xi_111_lane (s : Site K) (j : Fin 4) :
    kernel_collide.xi_111 s j = FluctuatingMRTLatticeModel.kernel_collide.xi_111 (lane s j) := by
  simp only [
    kernel_collide.xi_111, FluctuatingMRTLatticeModel.kernel_collide.xi_111,
    kernel_collide.xi_264_lane s j, kernel_collide.xi_270_lane s j, kernel_collide.xi_279_lane s
    j, kernel_collide.xi_280_lane s j,
    mm256_add_pd_apply, mm256_mul_pd_apply, mm256_div_pd_apply, mm256_sqrt_pd_apply,
    mm256_set_pd_apply, mm256_load_pd_apply, mm256_loadu_pd_add, mm256_loadu_pd_sub] <;>
  ring

theorem kernel_collide.xi_112_lane (s : Site K) (j : Fin 4) :
    kernel_collide.xi_112 s j = FluctuatingMRTLatticeModel.kernel_collide.xi_112 (lane s j) := by
  simp only [
    kernel_collide.xi_112, FluctuatingMRTLatticeModel.kernel_collide.xi_112,
    kernel_collide.xi_266_lane s j, kernel_collide.xi_268_lane s j, kernel_collide.xi_111_lane s j,
    mm256_add_pd_apply, mm256_mul_pd_apply, mm256_div_pd_apply, mm256_sqrt_pd_apply,
    mm256_set_pd_apply, mm256_load_pd_apply, mm256_loadu_pd_add, mm256_loadu_pd_sub] <;>
  ring

theorem kernel_collide.xi_113_lane (s : Site K) (j : Fin 4) :
    kernel_collide.xi_113 s j = FluctuatingMRTLatticeModel.kernel_collide.xi_113 (lane s j) := by
  simp only [
    kernel_collide.xi_113, FluctuatingMRTLatticeModel.kernel_collide.xi_113,
    kernel_collide.xi_260_lane s j, kernel_collide.xi_262_lane s j, kernel_collide.xi_272_lane s
    j, kernel_collide.xi_275_lane s j, kernel_collide.xi_276_lane s j, kernel_collide.xi_278_lane
    s j, kernel_collide.xi_109_lane s j, kernel_collide.xi_112_lane s j, lane_omega_even s j,
    mm256_add_pd_apply, mm256_mul_pd_apply, mm256_div_pd_apply, mm256_sqrt_pd_apply,
    mm256_set_pd_apply, mm256_load_pd_apply, mm256_loadu_pd_add, mm256_loadu_pd_sub] <;>
  ring

theorem kernel_collide.xi_116_lane (s : Site K) (j : Fin 4) :
    kernel_collide.xi_116 s j = FluctuatingMRTLatticeModel.kernel_collide.xi_116 (lane s j) := by
  simp only [
    kernel_collide.xi_116, FluctuatingMRTLatticeModel.kernel_collide.xi_116,
    kernel_collide.xi_264_lane s j,
    mm256_add_pd_apply, mm256_mul_pd_apply, mm256_div_pd_apply, mm256_sqrt_pd_apply,
    mm256_set_pd_apply, mm256_load_pd_apply, mm256_loadu_pd_add, mm256_loadu_pd_sub] <;>
  ring

theorem kernel_collide.xi_117_lane (s : Site K) (j : Fin 4) :
    kernel_collide.xi_117 s j = FluctuatingMRTLatticeModel.kernel_collide.xi_117 (lane s j) := by
  simp only [
    kernel_collide.xi_117, FluctuatingMRTLatticeModel.kernel_collide.xi_117,
    kernel_collide.xi_22_lane s j, kernel_collide.xi_116_lane s j,
    mm256_add_pd_apply, mm256_mul_pd_apply, mm256_div_pd_apply, mm256_sqrt_pd_apply,
    mm256_set_pd_apply, mm256_load_pd_apply, mm256_loadu_pd_add, mm256_loadu_pd_sub] <;>
  ring

theorem kernel_collide.xi_118_lane (s : Site K) (j : Fin 4) :
    kernel_collide.xi_118 s j = FluctuatingMRTLatticeModel.kernel_collide.xi_118 (lane s j) := by
  simp only [
    kernel_collide.xi_118, FluctuatingMRTLatticeModel.kernel_collide.xi_118,
    kernel_collide.xi_259_lane s j,
    mm256_add_pd_apply, mm256_mul_pd_apply, mm256_div_pd_apply, mm256_sqrt_pd_apply,
    mm256_set_pd_apply, mm256_load_pd_apply, mm256_loadu_pd_add, mm256_loadu_pd_sub] <;>
  ring

theorem kernel_collide.xi_121_lane (s : Site K) (j : Fin 4) :
    kernel_collide.xi_121 s j = FluctuatingMRTLatticeModel.kernel_collide.xi_121 (lane s j) := by
  simp only [
    kernel_collide.xi_121, FluctuatingMRTLatticeModel.kernel_collide.xi_121,
    kernel_collide.xi_272_lane s j,
    mm256_add_pd_apply, mm256_mul_pd_apply, mm256_div_pd_apply, mm256_sqrt_pd_apply,
    mm256_set_pd_apply, mm256_load_pd_apply, mm256_loadu_pd_add, mm256_loadu_pd_sub] <;>
  ring

theorem kernel_collide.xi_122_lane (s : Site K) (j : Fin 4) :
    kernel_collide.xi_122 s j = FluctuatingMRTLatticeModel.kernel_collide.xi_122 (lane s j) := by
  simp only [
    kernel_collide.xi_122, FluctuatingMRTLatticeModel.kernel_collide.xi_122,
    kernel_collide.xi_19_lane s j, kernel_collide.xi_27_lane s j, kernel_collide.xi_121_lane s j,
    mm256_add_pd_apply, mm256_mul_pd_apply, mm256_div_pd_apply, mm256_sqrt_pd_apply,
    mm256_set_pd_apply, mm256_load_pd_apply, mm256_loadu_pd_add, mm256_loadu_pd_sub] <;>
  ring

theorem kernel_collide.xi_124_lane (s : Site K) (j : Fin 4) :
    kernel_collide.xi_124 s j = FluctuatingMRTLatticeModel.kernel_collide.xi_124 (lane s j) := by
  simp only [
    kernel_collide.xi_124, FluctuatingMRTLatticeModel.kernel_collide.xi_124,
    kernel_collide.xi_275_lane s j,
    mm256_add_pd_apply, mm256_mul_pd_apply, mm256_div_pd_apply, mm256_sqrt_pd_apply,
    mm256_set_pd_apply, mm256_load_pd_apply, mm256_loadu_pd_add, mm256_loadu_pd_sub] <;>
  ring

theorem kernel_collide.xi_125_lane (s : Site K) (j : Fin 4) :
    kernel_collide.xi_125 s j = FluctuatingMRTLatticeModel.kernel_collide.xi_125 (lane s j) := by
  simp only [
    kernel_collide.xi_125, FluctuatingMRTLatticeModel.kernel_collide.xi_125,
    kernel_collide.xi_272_lane s j,
    mm256_add_pd_apply, mm256_mul_pd_apply, mm256_div_pd_apply, mm256_sqrt_pd_apply,
    mm256_set_pd_apply, mm256_load_pd_apply, mm256_loadu_pd_add, mm256_loadu_pd_sub] <;>
  ring

theorem kernel_collide.xi_126_lane (s : Site K) (j : Fin 4) :
    kernel_collide.xi_126 s j = FluctuatingMRTLatticeModel.kernel_collide.xi_126 (lane s j) := by
  simp only [
    kernel_collide.xi_126, FluctuatingMRTLatticeModel.kernel_collide.xi_126,
    kernel_collide.xi_262_lane s j, kernel_collide.xi_276_lane s j,
    mm256_add_pd_apply, mm256_mul_pd_apply, mm256_div_pd_apply, mm256_sqrt_pd_apply,
    mm256_set_pd_apply, mm256_load_pd_apply, mm256_loadu_pd_add, mm256_loadu_pd_sub] <;>
  ring

theorem kernel_collide.xi_127_lane (s : Site K) (j : Fin 4) :
    kernel_collide.xi_127 s j = FluctuatingMRTLatticeModel.kernel_collide.xi_127 (lane s j) := by
  simp only [
    kernel_collide.xi_127, FluctuatingMRTLatticeModel.kernel_collide.xi_127,
    kernel_collide.xi_259_lane s j, kernel_collide.xi_260_lane s j, kernel_collide.xi_261_lane s
    j, kernel_collide.xi_265_lane s j, kernel_collide.xi_267_lane s j, kernel_collide.xi_269_lane
    s j, kernel_collide.xi_274_lane s j, kernel_collide.xi_278_lane s j,
    kernel_collide.xi_108_lane s j, kernel_collide.xi_112_lane s j, kernel_collide.xi_124_lane s
    j, kernel_collide.xi_125_lane s j, kernel_collide.xi_126_lane s j, lane_omega_even s j,
    mm256_add_pd_apply, mm256_mul_pd_apply, mm256_div_pd_apply, mm256_sqrt_pd_apply,
    mm256_set_pd_apply, mm256_load_pd_apply, mm256_loadu_pd_add, mm256_loadu_pd_sub] <;>
  ring

theorem kernel_collide.xi_128_lane (s : Site K) (j : Fin 4) :
    kernel_collide.xi_128 s j = FluctuatingMRTLatticeModel.kernel_collide.xi_128 (lane s j) := by
  simp only [
    kernel_collide.xi_128, FluctuatingMRTLatticeModel.kernel_collide.xi_128,
    kernel_collide.xi_260_lane s j, kernel_collide.xi_279_lane s j, kernel_collide.xi_23_lane s j,
    kernel_collide.xi_38_lane s j, kernel_collide.xi_116_lane s j,
    mm256_add_pd_apply, mm256_mul_pd_apply, mm256_div_pd_apply, mm256_sqrt_pd_apply,
    mm256_set_pd_apply, mm256_load_pd_apply, mm256_loadu_pd_add, mm256_loadu_pd_sub] <;>
  ring

theorem kernel_collide.xi_130_lane (s : Site K) (j : Fin 4) :
    kernel_collide.xi_130 s j = FluctuatingMRTLatticeModel.kernel_collide.xi_130 (lane s j) := by
  simp only [
    kernel_collide.xi_130, FluctuatingMRTLatticeModel.kernel_collide.xi_130,
    kernel_collide.xi_129_lane s j, kernel_collide.xi_128_lane s j,
    mm256_add_pd_apply, mm256_mul_pd_apply, mm256_div_pd_apply, mm256_sqrt_pd_apply,
    mm256_set_pd_apply, mm256_load_pd_apply, mm256_loadu_pd_add, mm256_loadu_pd_sub] <;>
  ring

theorem kernel_collide.xi_135_lane (s : Site K) (j : Fin 4) :
    kernel_collide.xi_135 s j = FluctuatingMRTLatticeModel.kernel_collide.xi_135 (lane s j) := by
  simp only [
    kernel_collide.xi_135, FluctuatingMRTLatticeModel.kernel_collide.xi_135,
    kernel_collide.random_5_1_lane s j,
    mm256_add_pd_apply, mm256_mul_pd_apply, mm256_div_pd_apply, mm256_sqrt_pd_apply,
    mm256_set_pd_apply, mm256_load_pd_apply, mm256_loadu_pd_add, mm256_loadu_pd_sub] <;>
  ring

theorem kernel_collide.xi_140_lane (s : Site K) (j : Fin 4) :
    kernel_collide.xi_140 s j = FluctuatingMRTLatticeModel.kernel_collide.xi_140 (lane s j) := by
  simp only [
    kernel_collide.xi_140, FluctuatingMRTLatticeModel.kernel_collide.xi_140,
    kernel_collide.xi_269_lane s j,
    mm256_add_pd_apply, mm256_mul_pd_apply, mm256_div_pd_apply, mm256_sqrt_pd_apply,
    mm256_set_pd_apply, mm256_load_pd_apply, mm256_loadu_pd_add, mm256_loadu_pd_sub] <;>
  ring

theorem kernel_collide.xi_141_lane (s : Site K) (j : Fin 4) :
    kernel_collide.xi_141 s j = FluctuatingMRTLatticeModel.kernel_collide.xi_141 (lane s j) := by
  simp only [
    kernel_collide.xi_141, FluctuatingMRTLatticeModel.kernel_collide.xi_141,
    kernel_collide.xi_265_lane s j,
    mm256_add_pd_apply, mm256_mul_pd_apply, mm256_div_pd_apply, mm256_sqrt_pd_apply,
    mm256_set_pd_apply, mm256_load_pd_apply, mm256_loadu_pd_add, mm256_loadu_pd_sub] <;>
  ring

theorem kernel_collide.xi_142_lane (s : Site K) (j : Fin 4) :
    kernel_collide.xi_142 s j = FluctuatingMRTLatticeModel.kernel_collide.xi_142 (lane s j) := by
  simp only [
    kernel_collide.xi_142, FluctuatingMRTLatticeModel.kernel_collide.xi_142,
    kernel_collide.xi_259_lane s j, kernel_collide.xi_274_lane s j,
    mm256_add_pd_apply, mm256_mul_pd_apply, mm256_div_pd_apply, mm256_sqrt_pd_apply,
    mm256_set_pd_apply, mm256_load_pd_apply, mm256_loadu_pd_add, mm256_loadu_pd_sub] <;>
  ring

theorem kernel_collide.xi_143_lane (s : Site K) (j : Fin 4) :
    kernel_collide.xi_143 s j = FluctuatingMRTLatticeModel.kernel_collide.xi_143 (lane s j) := by
  simp only [
    kernel_collide.xi_143, FluctuatingMRTLatticeModel.kernel_collide.xi_143,
    kernel_collide.xi_4_lane s j, kernel_collide.xi_25_lane s j, kernel_collide.xi_140_lane s j,
    kernel_collide.xi_141_lane s j, kernel_collide.xi_142_lane s j,
    mm256_add_pd_apply, mm256_mul_pd_apply, mm256_div_pd_apply, mm256_sqrt_pd_apply,
    mm256_set_pd_apply, mm256_load_pd_apply, mm256_loadu_pd_add, mm256_loadu_pd_sub] <;>
  ring

theorem kernel_collide.xi_145_lane (s : Site K) (j : Fin 4) :
    kernel_collide.xi_145 s j = FluctuatingMRTLatticeModel.kernel_collide.xi_145 (lane s j) := by
  simp only [
    kernel_collide.xi_145, FluctuatingMRTLatticeModel.kernel_collide.xi_145,
    kernel_collide.xi_144_lane s j, kernel_collide.xi_143_lane s j,
    mm256_add_pd_apply, mm256_mul_pd_apply, mm256_div_pd_apply, mm256_sqrt_pd_apply,
    mm256_set_pd_apply, mm256_load_pd_apply, mm256_loadu_pd_add, mm256_loadu_pd_sub] <;>
  ring

theorem kernel_collide.xi_146_lane (s : Site K) (j : Fin 4) :
    kernel_collide.xi_146 s j = FluctuatingMRTLatticeModel.kernel_collide.xi_146 (lane s j) := by
  simp only [
    kernel_collide.xi_146, FluctuatingMRTLatticeModel.kernel_collide.xi_146,
    kernel_collide.random_3_0_lane s j,
    mm256_add_pd_apply, mm256_mul_pd_apply, mm256_div_pd_apply, mm256_sqrt_pd_apply,
    mm256_set_pd_apply, mm256_load_pd_apply, mm256_loadu_pd_add, mm256_loadu_pd_sub] <;>
  ring

theorem kernel_collide.xi_151_lane (s : Site K) (j : Fin 4) :
    kernel_collide.xi_151 s j = FluctuatingMRTLatticeModel.kernel_collide.xi_151 (lane s j) := by
  simp only [
    kernel_collide.xi_151, FluctuatingMRTLatticeModel.kernel_collide.xi_151,
    kernel_collide.random_0_1_lane s j,
    mm256_add_pd_apply, mm256_mul_pd_apply, mm256_div_pd_apply, mm256_sqrt_pd_apply,
    mm256_set_pd_apply, mm256_load_pd_apply, mm256_loadu_pd_add, mm256_loadu_pd_sub] <;>
  ring

theorem kernel_collide.xi_168_lane (s : Site K) (j : Fin 4) :
    kernel_collide.xi_168 s j = FluctuatingMRTLatticeModel.kernel_collide.xi_168 (lane s j) := by
  simp only [
    kernel_collide.xi_168, FluctuatingMRTLatticeModel.kernel_collide.xi_168,
    kernel_collide.xi_266_lane s j, kernel_collide.xi_275_lane s j, kernel_collide.xi_13_lane s j,
    kernel_collide.xi_34_lane s j, kernel_collide.xi_121_lane s j,
    mm256_add_pd_apply, mm256_mul_pd_apply, mm256_div_pd_apply, mm256_sqrt_pd_apply,
    mm256_set_pd_apply, mm256_load_pd_apply, mm256_loadu_pd_add, mm256_loadu_pd_sub] <;>
  ring

theorem kernel_collide.xi_169_lane (s : Site K) (j : Fin 4) :
    kernel_collide.xi_169 s j = FluctuatingMRTLatticeModel.kernel_collide.xi_169 (lane s j) := by
  simp only [
    kernel_collide.xi_169, FluctuatingMRTLatticeModel.kernel_collide.xi_169,
    kernel_collide.xi_129_lane s j, kernel_collide.xi_168_lane s j,
    mm256_add_pd_apply, mm256_mul_pd_apply, mm256_div_pd_apply, mm256_sqrt_pd_apply,
    mm256_set_pd_apply, mm256_load_pd_apply, mm256_loadu_pd_add, mm256_loadu_pd_sub] <;>
  ring

theorem kernel_collide.xi_170_lane (s : Site K) (j : Fin 4) :
    kernel_collide.xi_170 s j = FluctuatingMRTLatticeModel.kernel_collide.xi_170 (lane s j) := by
  simp only [
    kernel_collide.xi_170, FluctuatingMRTLatticeModel.kernel_collide.xi_170,
    kernel_collide.random_4_1_lane s j,
    mm256_add_pd_apply, mm256_mul_pd_apply, mm256_div_pd_apply, mm256_sqrt_pd_apply,
    mm256_set_pd_apply, mm256_load_pd_apply, mm256_loadu_pd_add, mm256_loadu_pd_sub] <;>
  ring

theorem kernel_collide.xi_172_lane (s : Site K) (j : Fin 4) :
    kernel_collide.xi_172 s j = FluctuatingMRTLatticeModel.kernel_collide.xi_172 (lane s j) := by
  simp only [
    kernel_collide.xi_172, FluctuatingMRTLatticeModel.kernel_collide.xi_172,
    kernel_collide.xi_262_lane s j, kernel_collide.xi_266_lane s j, kernel_collide.xi_14_lane s j,
    kernel_collide.xi_35_lane s j, kernel_collide.xi_140_lane s j, kernel_collide.xi_141_lane s j,
    kernel_collide.xi_142_lane s j,
    mm256_add_pd_apply, mm256_mul_pd_apply, mm256_div_pd_apply, mm256_sqrt_pd_apply,
    mm256_set_pd_apply, mm256_load_pd_apply, mm256_loadu_pd_add, mm256_loadu_pd_sub] <;>
  ring

theorem kernel_collide.xi_173_lane (s : Site K) (j : Fin 4) :
    kernel_collide.xi_173 s j = FluctuatingMRTLatticeModel.kernel_collide.xi_173 (lane s j) := by
  simp only [
    kernel_collide.xi_173, FluctuatingMRTLatticeModel.kernel_collide.xi_173,
    kernel_collide.xi_144_lane s j, kernel_collide.xi_172_lane s j,
    mm256_add_pd_apply, mm256_mul_pd_apply, mm256_div_pd_apply, mm256_sqrt_pd_apply,
    mm256_set_pd_apply, mm256_load_pd_apply, mm256_loadu_pd_add, mm256_loadu_pd_sub] <;>
  ring

theorem kernel_collide.xi_174_lane (s : Site K) (j : Fin 4) :
    kernel_collide.xi_174 s j = FluctuatingMRTLatticeModel.kernel_collide.xi_174 (lane s j) := by
  simp only [
    kernel_collide.xi_174, FluctuatingMRTLatticeModel.kernel_collide.xi_174,
    kernel_collide.random_4_0_lane s j,
    mm256_add_pd_apply, mm256_mul_pd_apply, mm256_div_pd_apply, mm256_sqrt_pd_apply,
    mm256_set_pd_apply, mm256_load_pd_apply, mm256_loadu_pd_add, mm256_loadu_pd_sub] <;>
  ring

theorem kernel_collide.xi_179_lane (s : Site K) (j : Fin 4) :
    kernel_collide.xi_179 s j = FluctuatingMRTLatticeModel.kernel_collide.xi_179 (lane s j) := by
  simp only [
    kernel_collide.xi_179, FluctuatingMRTLatticeModel.kernel_collide.xi_179,
    kernel_collide.xi_270_lane s j, kernel_collide.xi_280_lane s j,
    mm256_add_pd_apply, mm256_mul_pd_apply, mm256_div_pd_apply, mm256_sqrt_pd_apply,
    mm256_set_pd_apply, mm256_load_pd_apply, mm256_loadu_pd_add, mm256_loadu_pd_sub] <;>
  ring

theorem kernel_collide.xi_180_lane (s : Site K) (j : Fin 4) :
    kernel_collide.xi_180 s j = FluctuatingMRTLatticeModel.kernel_collide.xi_180 (lane s j) := by
  simp only [
    kernel_collide.xi_180, FluctuatingMRTLatticeModel.kernel_collide.xi_180,
    kernel_collide.xi_261_lane s j, kernel_collide.xi_29_lane s j, kernel_collide.xi_117_lane s j,
    kernel_collide.xi_179_lane s j,
    mm256_add_pd_apply, mm256_mul_pd_apply, mm256_div_pd_apply, mm256_sqrt_pd_apply,
    mm256_set_pd_apply, mm256_load_pd_apply, mm256_loadu_pd_add, mm256_loadu_pd_sub] <;>
  ring

theorem kernel_collide.xi_181_lane (s : Site K) (j : Fin 4) :
    kernel_collide.xi_181 s j = FluctuatingMRTLatticeModel.kernel_collide.xi_181 (lane s j) := by
  simp only [
    kernel_collide.xi_181, FluctuatingMRTLatticeModel.kernel_collide.xi_181,
    kernel_collide.xi_129_lane s j, kernel_collide.xi_180_lane s j,
    mm256_add_pd_apply, mm256_mul_pd_apply, mm256_div_pd_apply, mm256_sqrt_pd_apply,
    mm256_set_pd_apply, mm256_load_pd_apply, mm256_loadu_pd_add, mm256_loadu_pd_sub] <;>
  ring

theorem kernel_collide.xi_184_lane (s : Site K) (j : Fin 4) :
    kernel_collide.xi_184 s j = FluctuatingMRTLatticeModel.kernel_collide.xi_184 (lane s j) := by
  simp only [
    kernel_collide.xi_184, FluctuatingMRTLatticeModel.kernel_collide.xi_184,
    kernel_collide.random_5_0_lane s j,
    mm256_add_pd_apply, mm256_mul_pd_apply, mm256_div_pd_apply, mm256_sqrt_pd_apply,
    mm256_set_pd_apply, mm256_load_pd_apply, mm256_loadu_pd_add, mm256_loadu_pd_sub] <;>
  ring

theorem kernel_collide.xi_186_lane (s : Site K) (j : Fin 4) :
    kernel_collide.xi_186 s j = FluctuatingMRTLatticeModel.kernel_collide.xi_186 (lane s j) := by
  simp only [
    kernel_collide.xi_186, FluctuatingMRTLatticeModel.kernel_collide.xi_186,
    kernel_collide.xi_6_lane s j, kernel_collide.xi_30_lane s j, kernel_collide.xi_124_lane s j,
    kernel_collide.xi_125_lane s j, kernel_collide.xi_126_lane s j,
    mm256_add_pd_apply, mm256_mul_pd_apply, mm256_div_pd_apply, mm256_sqrt_pd_apply,
    mm256_set_pd_apply, mm256_load_pd_apply, mm256_loadu_pd_add, mm256_loadu_pd_sub] <;>
  ring

theorem kernel_collide.xi_187_lane (s : Site K) (j : Fin 4) :
    kernel_collide.xi_187 s j = FluctuatingMRTLatticeModel.kernel_collide.xi_187 (lane s j) := by
  simp only [
    kernel_collide.xi_187, FluctuatingMRTLatticeModel.kernel_collide.xi_187,
    kernel_collide.xi_144_lane s j, kernel_collide.xi_186_lane s j,
    mm256_add_pd_apply, mm256_mul_pd_apply, mm256_div_pd_apply, mm256_sqrt_pd_apply,
    mm256_set_pd_apply, mm256_load_pd_apply, mm256_loadu_pd_add, mm256_loadu_pd_sub] <;>
  ring

theorem kernel_collide.xi_188_lane (s : Site K) (j : Fin 4) :
    kernel_collide.xi_188 s j = FluctuatingMRTLatticeModel.kernel_collide.xi_188 (lane s j) := by
  simp only [
    kernel_collide.xi_188, FluctuatingMRTLatticeModel.kernel_collide.xi_188,
    kernel_collide.random_3_1_lane s j,
    mm256_add_pd_apply, mm256_mul_pd_apply, mm256_div_pd_apply, mm256_sqrt_pd_apply,
    mm256_set_pd_apply, mm256_load_pd_apply, mm256_loadu_pd_add, mm256_loadu_pd_sub] <;>
  ring

theorem kernel_collide.xi_195_lane (s : Site K) (j : Fin 4) :
    kernel_collide.xi_195 s j = FluctuatingMRTLatticeModel.kernel_collide.xi_195 (lane s j) := by
  simp only [
    kernel_collide.xi_195, FluctuatingMRTLatticeModel.kernel_collide.xi_195,
    kernel_collide.xi_127_lane s j,
    mm256_add_pd_apply, mm256_mul_pd_apply, mm256_div_pd_apply, mm256_sqrt_pd_apply,
    mm256_set_pd_apply, mm256_load_pd_apply, mm256_loadu_pd_add, mm256_loadu_pd_sub] <;>
  ring

theorem kernel_collide.xi_216_lane (s : Site K) (j : Fin 4) :
    kernel_collide.xi_216 s j = FluctuatingMRTLatticeModel.kernel_collide.xi_216 (lane s j) := by
  simp only [
    kernel_collide.xi_216, FluctuatingMRTLatticeModel.kernel_collide.xi_216,
    kernel_collide.xi_113_lane s j,
    mm256_add_pd_apply, mm256_mul_pd_apply, mm256_div_pd_apply, mm256_sqrt_pd_apply,
    mm256_set_pd_apply, mm256_load_pd_apply, mm256_loadu_pd_add, mm256_loadu_pd_sub] <;>
  ring

theorem kernel_collide.xi_218_lane (s : Site K) (j : Fin 4) :
    kernel_collide.xi_218 s j = FluctuatingMRTLatticeModel.kernel_collide.xi_218 (lane s j) := by
  simp only [
    kernel_collide.xi_218, FluctuatingMRTLatticeModel.kernel_collide.xi_218,
    kernel_collide.xi_110_lane s j,
    mm256_add_pd_apply, mm256_mul_pd_apply, mm256_div_pd_apply, mm256_sqrt_pd_apply,
    mm256_set_pd_apply, mm256_load_pd_apply, mm256_loadu_pd_add, mm256_loadu_pd_sub] <;>
  ring

theorem kernel_collide.xi_223_lane (s : Site K) (j : Fin 4) :
    kernel_collide.xi_223 s j = FluctuatingMRTLatticeModel.kernel_collide.xi_223 (lane s j) := by
  simp only [
    kernel_collide.xi_223, FluctuatingMRTLatticeModel.kernel_collide.xi_223,
    kernel_collide.xi_222_lane s j, kernel_collide.xi_186_lane s j,
    mm256_add_pd_apply, mm256_mul_pd_apply, mm256_div_pd_apply, mm256_sqrt_pd_apply,
    mm256_set_pd_apply, mm256_load_pd_apply, mm256_loadu_pd_add, mm256_loadu_pd_sub] <;>
  ring

theorem kernel_collide.xi_225_lane (s : Site K) (j : Fin 4) :
    kernel_collide.xi_225 s j = FluctuatingMRTLatticeModel.kernel_collide.xi_225 (lane s j) := by
  simp only [
    kernel_collide.xi_225, FluctuatingMRTLatticeModel.kernel_collide.xi_225,
    kernel_collide.xi_224_lane s j, kernel_collide.xi_180_lane s j,
    mm256_add_pd_apply, mm256_mul_pd_apply, mm256_div_pd_apply, mm256_sqrt_pd_apply,
    mm256_set_pd_apply, mm256_load_pd_apply, mm256_loadu_pd_add, mm256_loadu_pd_sub] <;>
  ring

theorem kernel_collide.xi_234_lane (s : Site K) (j : Fin 4) :
    kernel_collide.xi_234 s j = FluctuatingMRTLatticeModel.kernel_collide.xi_234 (lane s j) := by
  simp only [
    kernel_collide.xi_234, FluctuatingMRTLatticeModel.kernel_collide.xi_234,
    kernel_collide.xi_222_lane s j, kernel_collide.xi_143_lane s j,
    mm256_add_pd_apply, mm256_mul_pd_apply, mm256_div_pd_apply, mm256_sqrt_pd_apply,
    mm256_set_pd_apply, mm256_load_pd_apply, mm256_loadu_pd_add, mm256_loadu_pd_sub] <;>
  ring

theorem kernel_collide.xi_235_lane (s : Site K) (j : Fin 4) :
    kernel_collide.xi_235 s j = FluctuatingMRTLatticeModel.kernel_collide.xi_235 (lane s j) := by
  simp only [
    kernel_collide.xi_235, FluctuatingMRTLatticeModel.kernel_collide.xi_235,
    kernel_collide.xi_224_lane s j, kernel_collide.xi_128_lane s j,
    mm256_add_pd_apply, mm256_mul_pd_apply, mm256_div_pd_apply, mm256_sqrt_pd_apply,
    mm256_set_pd_apply, mm256_load_pd_apply, mm256_loadu_pd_add, mm256_loadu_pd_sub] <;>
  ring

theorem kernel_collide.xi_243_lane (s : Site K) (j : Fin 4) :
    kernel_collide.xi_243 s j = FluctuatingMRTLatticeModel.kernel_collide.xi_243 (lane s j) := by
  simp only [
    kernel_collide.xi_243, FluctuatingMRTLatticeModel.kernel_collide.xi_243,
    kernel_collide.xi_113_lane s j,
    mm256_add_pd_apply, mm256_mul_pd_apply, mm256_div_pd_apply, mm256_sqrt_pd_apply,
    mm256_set_pd_apply, mm256_load_pd_apply, mm256_loadu_pd_add, mm256_loadu_pd_sub] <;>
  ring

theorem kernel_collide.xi_249_lane (s : Site K) (j : Fin 4) :
    kernel_collide.xi_249 s j = FluctuatingMRTLatticeModel.kernel_collide.xi_249 (lane s j) := by
  simp only [
    kernel_collide.xi_249, FluctuatingMRTLatticeModel.kernel_collide.xi_249,
    kernel_collide.xi_224_lane s j, kernel_collide.xi_168_lane s j,
    mm256_add_pd_apply, mm256_mul_pd_apply, mm256_div_pd_apply, mm256_sqrt_pd_apply,
    mm256_set_pd_apply, mm256_load_pd_apply, mm256_loadu_pd_add, mm256_loadu_pd_sub] <;>
  ring

theorem kernel_collide.xi_250_lane (s : Site K) (j : Fin 4) :
    kernel_collide.xi_250 s j = FluctuatingMRTLatticeModel.kernel_collide.xi_250 (lane s j) := by
  simp only [
    kernel_collide.xi_250, FluctuatingMRTLatticeModel.kernel_collide.xi_250,
    kernel_collide.xi_222_lane s j, kernel_collide.xi_172_lane s j,
    mm256_add_pd_apply, mm256_mul_pd_apply, mm256_div_pd_apply, mm256_sqrt_pd_apply,
    mm256_set_pd_apply, mm256_load_pd_apply, mm256_loadu_pd_add, mm256_loadu_pd_sub] <;>
  ring

theorem kernel_collide.vel0Term_lane (s : Site K) (j : Fin 4) :
    kernel_collide.vel0Term s j = FluctuatingMRTLatticeModel.kernel_collide.vel0Term (lane s j) := by
  simp only [
    kernel_collide.vel0Term, FluctuatingMRTLatticeModel.kernel_collide.vel0Term,
    kernel_collide.xi_2_lane s j,
    mm256_add_pd_apply, mm256_mul_pd_apply, mm256_div_pd_apply, mm256_sqrt_pd_apply,
    mm256_set_pd_apply, mm256_load_pd_apply, mm256_loadu_pd_add, mm256_loadu_pd_sub] <;>
  ring

theorem kernel_collide.vel1Term_lane (s : Site K) (j : Fin 4) :
    kernel_collide.vel1Term s j = FluctuatingMRTLatticeModel.kernel_collide.vel1Term (lane s j) := by
  simp only [
    kernel_collide.vel1Term, FluctuatingMRTLatticeModel.kernel_collide.vel1Term,
    kernel_collide.xi_5_lane s j,
    mm256_add_pd_apply, mm256_mul_pd_apply, mm256_div_pd_apply, mm256_sqrt_pd_apply,
    mm256_set_pd_apply, mm256_load_pd_apply, mm256_loadu_pd_add, mm256_loadu_pd_sub] <;>
  ring

theorem kernel_collide.vel2Term_lane (s : Site K) (j : Fin 4) :
    kernel_collide.vel2Term s j = FluctuatingMRTLatticeModel.kernel_collide.vel2Term (lane s j) := by
  simp only [
    kernel_collide.vel2Term, FluctuatingMRTLatticeModel.kernel_collide.vel2Term,
    kernel_collide.xi_7_lane s j,
    mm256_add_pd_apply, mm256_mul_pd_apply, mm256_div_pd_apply, mm256_sqrt_pd_apply,
    mm256_set_pd_apply, mm256_load_pd_apply, mm256_loadu_pd_add, mm256_loadu_pd_sub] <;>
  ring

theorem kernel_collide.rho_lane (s : Site K) (j : Fin 4) :
    kernel_collide.rho s j = FluctuatingMRTLatticeModel.kernel_collide.rho (lane s j) := by
  simp only [
    kernel_collide.rho, FluctuatingMRTLatticeModel.kernel_collide.rho, kernel_collide.xi_263_lane
    s j, kernel_collide.xi_8_lane s j, kernel_collide.xi_9_lane s j, kernel_collide.xi_10_lane s
    j, kernel_collide.vel0Term_lane s j, kernel_collide.vel1Term_lane s j,
    kernel_collide.vel2Term_lane s j,
    mm256_add_pd_apply, mm256_mul_pd_apply, mm256_div_pd_apply, mm256_sqrt_pd_apply,
    mm256_set_pd_apply, mm256_load_pd_apply, mm256_loadu_pd_add, mm256_loadu_pd_sub] <;>
  ring

theorem kernel_collide.xi_11_lane (s : Site K) (j : Fin 4) :
    kernel_collide.xi_11 s j = FluctuatingMRTLatticeModel.kernel_collide.xi_11 (lane s j) := by
  simp only [
    kernel_collide.xi_11, FluctuatingMRTLatticeModel.kernel_collide.xi_11, kernel_collide.rho_lane
    s j,
    mm256_add_pd_apply, mm256_mul_pd_apply, mm256_div_pd_apply, mm256_sqrt_pd_apply,
    mm256_set_pd_apply, mm256_load_pd_apply, mm256_loadu_pd_add, mm256_loadu_pd_sub] <;>
  ring

theorem kernel_collide.xi_101_lane (s : Site K) (j : Fin 4) :
    kernel_collide.xi_101 s j = FluctuatingMRTLatticeModel.kernel_collide.xi_101 (lane s j) := by
  simp only [
    kernel_collide.xi_101, FluctuatingMRTLatticeModel.kernel_collide.xi_101,
    kernel_collide.rho_lane s j, lane_kT s j,
    mm256_add_pd_apply, mm256_mul_pd_apply, mm256_div_pd_apply, mm256_sqrt_pd_apply,
    mm256_set_pd_apply, mm256_load_pd_apply, mm256_loadu_pd_add, mm256_loadu_pd_sub] <;>
  ring

theorem kernel_collide.xi_102_lane (s : Site K) (j : Fin 4) :
    kernel_collide.xi_102 s j = FluctuatingMRTLatticeModel.kernel_collide.xi_102 (lane s j) := by
  simp only [
    kernel_collide.xi_102, FluctuatingMRTLatticeModel.kernel_collide.xi_102,
    kernel_collide.xi_101_lane s j, lane_sqrt s j, lane_omega_even s j,
    mm256_add_pd_apply, mm256_mul_pd_apply, mm256_div_pd_apply, mm256_sqrt_pd_apply,
    mm256_set_pd_apply, mm256_load_pd_apply, mm256_loadu_pd_add, mm256_loadu_pd_sub] <;>
  ring

theorem kernel_collide.xi_103_lane (s : Site K) (j : Fin 4) :
    kernel_collide.xi_103 s j = FluctuatingMRTLatticeModel.kernel_collide.xi_103 (lane s j) := by
  simp only [
    kernel_collide.xi_103, FluctuatingMRTLatticeModel.kernel_collide.xi_103,
    kernel_collide.random_6_0_lane s j, kernel_collide.xi_102_lane s j,
    mm256_add_pd_apply, mm256_mul_pd_apply, mm256_div_pd_apply, mm256_sqrt_pd_apply,
    mm256_set_pd_apply, mm256_load_pd_apply, mm256_loadu_pd_add, mm256_loadu_pd_sub] <;>
  ring

theorem kernel_collide.xi_104_lane (s : Site K) (j : Fin 4) :
    kernel_collide.xi_104 s j = FluctuatingMRTLatticeModel.kernel_collide.xi_104 (lane s j) := by
  simp only [
    kernel_collide.xi_104, FluctuatingMRTLatticeModel.kernel_collide.xi_104,
    kernel_collide.random_7_0_lane s j, kernel_collide.xi_102_lane s j,
    mm256_add_pd_apply, mm256_mul_pd_apply, mm256_div_pd_apply, mm256_sqrt_pd_apply,
    mm256_set_pd_apply, mm256_load_pd_apply, mm256_loadu_pd_add, mm256_loadu_pd_sub] <;>
  ring

theorem kernel_collide.xi_106_lane (s : Site K) (j : Fin 4) :
    kernel_collide.xi_106 s j = FluctuatingMRTLatticeModel.kernel_collide.xi_106 (lane s j) := by
  simp only [
    kernel_collide.xi_106, FluctuatingMRTLatticeModel.kernel_collide.xi_106,
    kernel_collide.xi_40_lane s j, kernel_collide.xi_105_lane s j, kernel_collide.random_2_1_lane
    s j, kernel_collide.xi_101_lane s j, lane_sqrt s j,
    mm256_add_pd_apply, mm256_mul_pd_apply, mm256_div_pd_apply, mm256_sqrt_pd_apply,
    mm256_set_pd_apply, mm256_load_pd_apply, mm256_loadu_pd_add, mm256_loadu_pd_sub] <;>
  ring

theorem kernel_collide.xi_107_lane (s : Site K) (j : Fin 4) :
    kernel_collide.xi_107 s j = FluctuatingMRTLatticeModel.kernel_collide.xi_107 (lane s j) := by
  simp only [
    kernel_collide.xi_107, FluctuatingMRTLatticeModel.kernel_collide.xi_107,
    kernel_collide.random_6_1_lane s j, kernel_collide.xi_102_lane s j,
    mm256_add_pd_apply, mm256_mul_pd_apply, mm256_div_pd_apply, mm256_sqrt_pd_apply,
    mm256_set_pd_apply, mm256_load_pd_apply, mm256_loadu_pd_add, mm256_loadu_pd_sub] <;>
  ring

theorem kernel_collide.xi_136_lane (s : Site K) (j : Fin 4) :
    kernel_collide.xi_136 s j = FluctuatingMRTLatticeModel.kernel_collide.xi_136 (lane s j) := by
  simp only [
    kernel_collide.xi_136, FluctuatingMRTLatticeModel.kernel_collide.xi_136,
    kernel_collide.xi_101_lane s j, lane_sqrt s j, lane_omega_odd s j,
    mm256_add_pd_apply, mm256_mul_pd_apply, mm256_div_pd_apply, mm256_sqrt_pd_apply,
    mm256_set_pd_apply, mm256_load_pd_apply, mm256_loadu_pd_add, mm256_loadu_pd_sub] <;>
  ring

theorem kernel_collide.xi_137_lane (s : Site K) (j : Fin 4) :
    kernel_collide.xi_137 s j = FluctuatingMRTLatticeModel.kernel_collide.xi_137 (lane s j) := by
  simp only [
    kernel_collide.xi_137, FluctuatingMRTLatticeModel.kernel_collide.xi_137,
    kernel_collide.xi_136_lane s j,
    mm256_add_pd_apply, mm256_mul_pd_apply, mm256_div_pd_apply, mm256_sqrt_pd_apply,
    mm256_set_pd_apply, mm256_load_pd_apply, mm256_loadu_pd_add, mm256_loadu_pd_sub] <;>
  ring

theorem kernel_collide.xi_138_lane (s : Site K) (j : Fin 4) :
    kernel_collide.xi_138 s j = FluctuatingMRTLatticeModel.kernel_collide.xi_138 (lane s j) := by
  simp only [
    kernel_collide.xi_138, FluctuatingMRTLatticeModel.kernel_collide.xi_138,
    kernel_collide.xi_137_lane s j,
    mm256_add_pd_apply, mm256_mul_pd_apply, mm256_div_pd_apply, mm256_sqrt_pd_apply,
    mm256_set_pd_apply, mm256_load_pd_apply, mm256_loadu_pd_add, mm256_loadu_pd_sub] <;>
  ring

theorem kernel_collide.xi_139_lane (s : Site K) (j : Fin 4) :
    kernel_collide.xi_139 s j = FluctuatingMRTLatticeModel.kernel_collide.xi_139 (lane s j) := by
  simp only [
    kernel_collide.xi_139, FluctuatingMRTLatticeModel.kernel_collide.xi_139,
    kernel_collide.xi_135_lane s j, kernel_collide.xi_138_lane s j,
    mm256_add_pd_apply, mm256_mul_pd_apply, mm256_div_pd_apply, mm256_sqrt_pd_apply,
    mm256_set_pd_apply, mm256_load_pd_apply, mm256_loadu_pd_add, mm256_loadu_pd_sub] <;>
  ring

theorem kernel_collide.xi_147_lane (s : Site K) (j : Fin 4) :
    kernel_collide.xi_147 s j = FluctuatingMRTLatticeModel.kernel_collide.xi_147 (lane s j) := by
  simp only [
    kernel_collide.xi_147, FluctuatingMRTLatticeModel.kernel_collide.xi_147,
    kernel_collide.xi_105_lane s j, kernel_collide.xi_136_lane s j,
    mm256_add_pd_apply, mm256_mul_pd_apply, mm256_div_pd_apply, mm256_sqrt_pd_apply,
    mm256_set_pd_apply, mm256_load_pd_apply, mm256_loadu_pd_add, mm256_loadu_pd_sub] <;>
  ring

theorem kernel_collide.xi_148_lane (s : Site K) (j : Fin 4) :
    kernel_collide.xi_148 s j = FluctuatingMRTLatticeModel.kernel_collide.xi_148 (lane s j) := by
  simp only [
    kernel_collide.xi_148, FluctuatingMRTLatticeModel.kernel_collide.xi_148,
    kernel_collide.xi_147_lane s j,
    mm256_add_pd_apply, mm256_mul_pd_apply, mm256_div_pd_apply, mm256_sqrt_pd_apply,
    mm256_set_pd_apply, mm256_load_pd_apply, mm256_loadu_pd_add, mm256_loadu_pd_sub] <;>
  ring

theorem kernel_collide.xi_149_lane (s : Site K) (j : Fin 4) :
    kernel_collide.xi_149 s j = FluctuatingMRTLatticeModel.kernel_collide.xi_149 (lane s j) := by
  simp only [
    kernel_collide.xi_149, FluctuatingMRTLatticeModel.kernel_collide.xi_149,
    kernel_collide.xi_146_lane s j, kernel_collide.xi_148_lane s j,
    mm256_add_pd_apply, mm256_mul_pd_apply, mm256_div_pd_apply, mm256_sqrt_pd_apply,
    mm256_set_pd_apply, mm256_load_pd_apply, mm256_loadu_pd_add, mm256_loadu_pd_sub] <;>
  ring

theorem kernel_collide.xi_150_lane (s : Site K) (j : Fin 4) :
    kernel_collide.xi_150 s j = FluctuatingMRTLatticeModel.kernel_collide.xi_150 (lane s j) := by
  simp only [
    kernel_collide.xi_150, FluctuatingMRTLatticeModel.kernel_collide.xi_150,
    kernel_collide.xi_145_lane s j, kernel_collide.xi_149_lane s j,
    mm256_add_pd_apply, mm256_mul_pd_apply, mm256_div_pd_apply, mm256_sqrt_pd_apply,
    mm256_set_pd_apply, mm256_load_pd_apply, mm256_loadu_pd_add, mm256_loadu_pd_sub] <;>
  ring

theorem kernel_collide.xi_152_lane (s : Site K) (j : Fin 4) :
    kernel_collide.xi_152 s j = FluctuatingMRTLatticeModel.kernel_collide.xi_152 (lane s j) := by
  simp only [
    kernel_collide.xi_152, FluctuatingMRTLatticeModel.kernel_collide.xi_152,
    kernel_collide.xi_51_lane s j, kernel_collide.xi_101_lane s j, lane_sqrt s j,
    mm256_add_pd_apply, mm256_mul_pd_apply, mm256_div_pd_apply, mm256_sqrt_pd_apply,
    mm256_set_pd_apply, mm256_load_pd_apply, mm256_loadu_pd_add, mm256_loadu_pd_sub] <;>
  ring

theorem kernel_collide.xi_153_lane (s : Site K) (j : Fin 4) :
    kernel_collide.xi_153 s j = FluctuatingMRTLatticeModel.kernel_collide.xi_153 (lane s j) := by
  simp only [
    kernel_collide.xi_153, FluctuatingMRTLatticeModel.kernel_collide.xi_153,
    kernel_collide.xi_152_lane s j,
    mm256_add_pd_apply, mm256_mul_pd_apply, mm256_div_pd_apply, mm256_sqrt_pd_apply,
    mm256_set_pd_apply, mm256_load_pd_apply, mm256_loadu_pd_add, mm256_loadu_pd_sub] <;>
  ring

theorem kernel_collide.xi_154_lane (s : Site K) (j : Fin 4) :
    kernel_collide.xi_154 s j = FluctuatingMRTLatticeModel.kernel_collide.xi_154 (lane s j) := by
  simp only [
    kernel_collide.xi_154, FluctuatingMRTLatticeModel.kernel_collide.xi_154,
    kernel_collide.xi_151_lane s j, kernel_collide.xi_153_lane s j,
    mm256_add_pd_apply, mm256_mul_pd_apply, mm256_div_pd_apply, mm256_sqrt_pd_apply,
    mm256_set_pd_apply, mm256_load_pd_apply, mm256_loadu_pd_add, mm256_loadu_pd_sub] <;>
  ring

theorem kernel_collide.xi_158_lane (s : Site K) (j : Fin 4) :
    kernel_collide.xi_158 s j = FluctuatingMRTLatticeModel.kernel_collide.xi_158 (lane s j) := by
  simp only [
    kernel_collide.xi_158, FluctuatingMRTLatticeModel.kernel_collide.xi_158,
    kernel_collide.xi_127_lane s j, kernel_collide.xi_103_lane s j,
    mm256_add_pd_apply, mm256_mul_pd_apply, mm256_div_pd_apply, mm256_sqrt_pd_apply,
    mm256_set_pd_apply, mm256_load_pd_apply, mm256_loadu_pd_add, mm256_loadu_pd_sub] <;>
  ring

theorem kernel_collide.xi_160_lane (s : Site K) (j : Fin 4) :
    kernel_collide.xi_160 s j = FluctuatingMRTLatticeModel.kernel_collide.xi_160 (lane s j) := by
  simp only [
    kernel_collide.xi_160, FluctuatingMRTLatticeModel.kernel_collide.xi_160,
    kernel_collide.random_0_0_lane s j, kernel_collide.xi_152_lane s j,
    mm256_add_pd_apply, mm256_mul_pd_apply, mm256_div_pd_apply, mm256_sqrt_pd_apply,
    mm256_set_pd_apply, mm256_load_pd_apply, mm256_loadu_pd_add, mm256_loadu_pd_sub] <;>
  ring

theorem kernel_collide.xi_164_lane (s : Site K) (j : Fin 4) :
    kernel_collide.xi_164 s j = FluctuatingMRTLatticeModel.kernel_collide.xi_164 (lane s j) := by
  simp only [
    kernel_collide.xi_164, FluctuatingMRTLatticeModel.kernel_collide.xi_164,
    kernel_collide.xi_145_lane s j, kernel_collide.xi_149_lane s j,
    mm256_add_pd_apply, mm256_mul_pd_apply, mm256_div_pd_apply, mm256_sqrt_pd_apply,
    mm256_set_pd_apply, mm256_load_pd_apply, mm256_loadu_pd_add, mm256_loadu_pd_sub] <;>
  ring

theorem kernel_collide.xi_171_lane (s : Site K) (j : Fin 4) :
    kernel_collide.xi_171 s j = FluctuatingMRTLatticeModel.kernel_collide.xi_171 (lane s j) := by
  simp only [
    kernel_collide.xi_171, FluctuatingMRTLatticeModel.kernel_collide.xi_171,
    kernel_collide.xi_170_lane s j, kernel_collide.xi_138_lane s j,
    mm256_add_pd_apply, mm256_mul_pd_apply, mm256_div_pd_apply, mm256_sqrt_pd_apply,
    mm256_set_pd_apply, mm256_load_pd_apply, mm256_loadu_pd_add, mm256_loadu_pd_sub] <;>
  ring

theorem kernel_collide.xi_175_lane (s : Site K) (j : Fin 4) :
    kernel_collide.xi_175 s j = FluctuatingMRTLatticeModel.kernel_collide.xi_175 (lane s j) := by
  simp only [
    kernel_collide.xi_175, FluctuatingMRTLatticeModel.kernel_collide.xi_175,
    kernel_collide.xi_174_lane s j, kernel_collide.xi_148_lane s j,
    mm256_add_pd_apply, mm256_mul_pd_apply, mm256_div_pd_apply, mm256_sqrt_pd_apply,
    mm256_set_pd_apply, mm256_load_pd_apply, mm256_loadu_pd_add, mm256_loadu_pd_sub] <;>
  ring

theorem kernel_collide.xi_176_lane (s : Site K) (j : Fin 4) :
    kernel_collide.xi_176 s j = FluctuatingMRTLatticeModel.kernel_collide.xi_176 (lane s j) := by
  simp only [
    kernel_collide.xi_176, FluctuatingMRTLatticeModel.kernel_collide.xi_176,
    kernel_collide.xi_173_lane s j, kernel_collide.xi_175_lane s j,
    mm256_add_pd_apply, mm256_mul_pd_apply, mm256_div_pd_apply, mm256_sqrt_pd_apply,
    mm256_set_pd_apply, mm256_load_pd_apply, mm256_loadu_pd_add, mm256_loadu_pd_sub] <;>
  ring

theorem kernel_collide.xi_178_lane (s : Site K) (j : Fin 4) :
    kernel_collide.xi_178 s j = FluctuatingMRTLatticeModel.kernel_collide.xi_178 (lane s j) := by
  simp only [
    kernel_collide.xi_178, FluctuatingMRTLatticeModel.kernel_collide.xi_178,
    kernel_collide.xi_173_lane s j, kernel_collide.xi_175_lane s j,
    mm256_add_pd_apply, mm256_mul_pd_apply, mm256_div_pd_apply, mm256_sqrt_pd_apply,
    mm256_set_pd_apply, mm256_load_pd_apply, mm256_loadu_pd_add, mm256_loadu_pd_sub] <;>
  ring

theorem kernel_collide.xi_185_lane (s : Site K) (j : Fin 4) :
    kernel_collide.xi_185 s j = FluctuatingMRTLatticeModel.kernel_collide.xi_185 (lane s j) := by
  simp only [
    kernel_collide.xi_185, FluctuatingMRTLatticeModel.kernel_collide.xi_185,
    kernel_collide.xi_184_lane s j, kernel_collide.xi_138_lane s j,
    mm256_add_pd_apply, mm256_mul_pd_apply, mm256_div_pd_apply, mm256_sqrt_pd_apply,
    mm256_set_pd_apply, mm256_load_pd_apply, mm256_loadu_pd_add, mm256_loadu_pd_sub] <;>
  ring

theorem kernel_collide.xi_189_lane (s : Site K) (j : Fin 4) :
    kernel_collide.xi_189 s j = FluctuatingMRTLatticeModel.kernel_collide.xi_189 (lane s j) := by
  simp only [
    kernel_collide.xi_189, FluctuatingMRTLatticeModel.kernel_collide.xi_189,
    kernel_collide.xi_188_lane s j, kernel_collide.xi_148_lane s j,
    mm256_add_pd_apply, mm256_mul_pd_apply, mm256_div_pd_apply, mm256_sqrt_pd_apply,
    mm256_set_pd_apply, mm256_load_pd_apply, mm256_loadu_pd_add, mm256_loadu_pd_sub] <;>
  ring

theorem kernel_collide.xi_190_lane (s : Site K) (j : Fin 4) :
    kernel_collide.xi_190 s j = FluctuatingMRTLatticeModel.kernel_collide.xi_190 (lane s j) := by
  simp only [
    kernel_collide.xi_190, FluctuatingMRTLatticeModel.kernel_collide.xi_190,
    kernel_collide.xi_187_lane s j, kernel_collide.xi_189_lane s j,
    mm256_add_pd_apply, mm256_mul_pd_apply, mm256_div_pd_apply, mm256_sqrt_pd_apply,
    mm256_set_pd_apply, mm256_load_pd_apply, mm256_loadu_pd_add, mm256_loadu_pd_sub] <;>
  ring

theorem kernel_collide.xi_192_lane (s : Site K) (j : Fin 4) :
    kernel_collide.xi_192 s j = FluctuatingMRTLatticeModel.kernel_collide.xi_192 (lane s j) := by
  simp only [
    kernel_collide.xi_192, FluctuatingMRTLatticeModel.kernel_collide.xi_192,
    kernel_collide.xi_187_lane s j, kernel_collide.xi_189_lane s j,
    mm256_add_pd_apply, mm256_mul_pd_apply, mm256_div_pd_apply, mm256_sqrt_pd_apply,
    mm256_set_pd_apply, mm256_load_pd_apply, mm256_loadu_pd_add, mm256_loadu_pd_sub] <;>
  ring

theorem kernel_collide.xi_193_lane (s : Site K) (j : Fin 4) :
    kernel_collide.xi_193 s j = FluctuatingMRTLatticeModel.kernel_collide.xi_193 (lane s j) := by
  simp only [
    kernel_collide.xi_193, FluctuatingMRTLatticeModel.kernel_collide.xi_193,
    kernel_collide.xi_151_lane s j, kernel_collide.xi_152_lane s j,
    mm256_add_pd_apply, mm256_mul_pd_apply, mm256_div_pd_apply, mm256_sqrt_pd_apply,
    mm256_set_pd_apply, mm256_load_pd_apply, mm256_loadu_pd_add, mm256_loadu_pd_sub] <;>
  ring

theorem kernel_collide.xi_196_lane (s : Site K) (j : Fin 4) :
    kernel_collide.xi_196 s j = FluctuatingMRTLatticeModel.kernel_collide.xi_196 (lane s j) := by
  simp only [
    kernel_collide.xi_196, FluctuatingMRTLatticeModel.kernel_collide.xi_196,
    kernel_collide.xi_103_lane s j,
    mm256_add_pd_apply, mm256_mul_pd_apply, mm256_div_pd_apply, mm256_sqrt_pd_apply,
    mm256_set_pd_apply, mm256_load_pd_apply, mm256_loadu_pd_add, mm256_loadu_pd_sub] <;>
  ring

theorem kernel_collide.xi_206_lane (s : Site K) (j : Fin 4) :
    kernel_collide.xi_206 s j = FluctuatingMRTLatticeModel.kernel_collide.xi_206 (lane s j) := by
  simp only [
    kernel_collide.xi_206, FluctuatingMRTLatticeModel.kernel_collide.xi_206,
    kernel_collide.random_1_0_lane s j, kernel_collide.xi_153_lane s j,
    mm256_add_pd_apply, mm256_mul_pd_apply, mm256_div_pd_apply, mm256_sqrt_pd_apply,
    mm256_set_pd_apply, mm256_load_pd_apply, mm256_loadu_pd_add, mm256_loadu_pd_sub] <;>
  ring

theorem kernel_collide.xi_215_lane (s : Site K) (j : Fin 4) :
    kernel_collide.xi_215 s j = FluctuatingMRTLatticeModel.kernel_collide.xi_215 (lane s j) := by
  simp only [
    kernel_collide.xi_215, FluctuatingMRTLatticeModel.kernel_collide.xi_215,
    kernel_collide.random_2_0_lane s j, kernel_collide.xi_153_lane s j,
    mm256_add_pd_apply, mm256_mul_pd_apply, mm256_div_pd_apply, mm256_sqrt_pd_apply,
    mm256_set_pd_apply, mm256_load_pd_apply, mm256_loadu_pd_add, mm256_loadu_pd_sub] <;>
  ring

theorem kernel_collide.xi_219_lane (s : Site K) (j : Fin 4) :
    kernel_collide.xi_219 s j = FluctuatingMRTLatticeModel.kernel_collide.xi_219 (lane s j) := by
  simp only [
    kernel_collide.xi_219, FluctuatingMRTLatticeModel.kernel_collide.xi_219,
    kernel_collide.xi_107_lane s j,
    mm256_add_pd_apply, mm256_mul_pd_apply, mm256_div_pd_apply, mm256_sqrt_pd_apply,
    mm256_set_pd_apply, mm256_load_pd_apply, mm256_loadu_pd_add, mm256_loadu_pd_sub] <;>
  ring

theorem kernel_collide.xi_220_lane (s : Site K) (j : Fin 4) :
    kernel_collide.xi_220 s j = FluctuatingMRTLatticeModel.kernel_collide.xi_220 (lane s j) := by
  simp only [
    kernel_collide.xi_220, FluctuatingMRTLatticeModel.kernel_collide.xi_220,
    kernel_collide.xi_104_lane s j,
    mm256_add_pd_apply, mm256_mul_pd_apply, mm256_div_pd_apply, mm256_sqrt_pd_apply,
    mm256_set_pd_apply, mm256_load_pd_apply, mm256_loadu_pd_add, mm256_loadu_pd_sub] <;>
  ring

theorem kernel_collide.xi_226_lane (s : Site K) (j : Fin 4) :
    kernel_collide.xi_226 s j = FluctuatingMRTLatticeModel.kernel_collide.xi_226 (lane s j) := by
  simp only [
    kernel_collide.xi_226, FluctuatingMRTLatticeModel.kernel_collide.xi_226,
    kernel_collide.xi_147_lane s j,
    mm256_add_pd_apply, mm256_mul_pd_apply, mm256_div_pd_apply, mm256_sqrt_pd_apply,
    mm256_set_pd_apply, mm256_load_pd_apply, mm256_loadu_pd_add, mm256_loadu_pd_sub] <;>
  ring

theorem kernel_collide.xi_227_lane (s : Site K) (j : Fin 4) :
    kernel_collide.xi_227 s j = FluctuatingMRTLatticeModel.kernel_collide.xi_227 (lane s j) := by
  simp only [
    kernel_collide.xi_227, FluctuatingMRTLatticeModel.kernel_collide.xi_227,
    kernel_collide.xi_188_lane s j, kernel_collide.xi_226_lane s j,
    mm256_add_pd_apply, mm256_mul_pd_apply, mm256_div_pd_apply, mm256_sqrt_pd_apply,
    mm256_set_pd_apply, mm256_load_pd_apply, mm256_loadu_pd_add, mm256_loadu_pd_sub] <;>
  ring

theorem kernel_collide.xi_228_lane (s : Site K) (j : Fin 4) :
    kernel_collide.xi_228 s j = FluctuatingMRTLatticeModel.kernel_collide.xi_228 (lane s j) := by
  simp only [
    kernel_collide.xi_228, FluctuatingMRTLatticeModel.kernel_collide.xi_228,
    kernel_collide.xi_137_lane s j,
    mm256_add_pd_apply, mm256_mul_pd_apply, mm256_div_pd_apply, mm256_sqrt_pd_apply,
    mm256_set_pd_apply, mm256_load_pd_apply, mm256_loadu_pd_add, mm256_loadu_pd_sub] <;>
  ring

theorem kernel_collide.xi_229_lane (s : Site K) (j : Fin 4) :
    kernel_collide.xi_229 s j = FluctuatingMRTLatticeModel.kernel_collide.xi_229 (lane s j) := by
  simp only [
    kernel_collide.xi_229, FluctuatingMRTLatticeModel.kernel_collide.xi_229,
    kernel_collide.xi_184_lane s j, kernel_collide.xi_228_lane s j,
    mm256_add_pd_apply, mm256_mul_pd_apply, mm256_div_pd_apply, mm256_sqrt_pd_apply,
    mm256_set_pd_apply, mm256_load_pd_apply, mm256_loadu_pd_add, mm256_loadu_pd_sub] <;>
  ring

theorem kernel_collide.xi_231_lane (s : Site K) (j : Fin 4) :
    kernel_collide.xi_231 s j = FluctuatingMRTLatticeModel.kernel_collide.xi_231 (lane s j) := by
  simp only [
    kernel_collide.xi_231, FluctuatingMRTLatticeModel.kernel_collide.xi_231,
    kernel_collide.xi_127_lane s j, kernel_collide.xi_103_lane s j,
    mm256_add_pd_apply, mm256_mul_pd_apply, mm256_div_pd_apply, mm256_sqrt_pd_apply,
    mm256_set_pd_apply, mm256_load_pd_apply, mm256_loadu_pd_add, mm256_loadu_pd_sub] <;>
  ring

theorem kernel_collide.xi_236_lane (s : Site K) (j : Fin 4) :
    kernel_collide.xi_236 s j = FluctuatingMRTLatticeModel.kernel_collide.xi_236 (lane s j) := by
  simp only [
    kernel_collide.xi_236, FluctuatingMRTLatticeModel.kernel_collide.xi_236,
    kernel_collide.xi_146_lane s j, kernel_collide.xi_226_lane s j,
    mm256_add_pd_apply, mm256_mul_pd_apply, mm256_div_pd_apply, mm256_sqrt_pd_apply,
    mm256_set_pd_apply, mm256_load_pd_apply, mm256_loadu_pd_add, mm256_loadu_pd_sub] <;>
  ring

theorem kernel_collide.xi_237_lane (s : Site K) (j : Fin 4) :
    kernel_collide.xi_237 s j = FluctuatingMRTLatticeModel.kernel_collide.xi_237 (lane s j) := by
  simp only [
    kernel_collide.xi_237, FluctuatingMRTLatticeModel.kernel_collide.xi_237,
    kernel_collide.xi_135_lane s j, kernel_collide.xi_228_lane s j,
    mm256_add_pd_apply, mm256_mul_pd_apply, mm256_div_pd_apply, mm256_sqrt_pd_apply,
    mm256_set_pd_apply, mm256_load_pd_apply, mm256_loadu_pd_add, mm256_loadu_pd_sub] <;>
  ring

theorem kernel_collide.xi_241_lane (s : Site K) (j : Fin 4) :
    kernel_collide.xi_241 s j = FluctuatingMRTLatticeModel.kernel_collide.xi_241 (lane s j) := by
  simp only [
    kernel_collide.xi_241, FluctuatingMRTLatticeModel.kernel_collide.xi_241,
    kernel_collide.xi_193_lane s j,
    mm256_add_pd_apply, mm256_mul_pd_apply, mm256_div_pd_apply, mm256_sqrt_pd_apply,
    mm256_set_pd_apply, mm256_load_pd_apply, mm256_loadu_pd_add, mm256_loadu_pd_sub] <;>
  ring

theorem kernel_collide.xi_244_lane (s : Site K) (j : Fin 4) :
    kernel_collide.xi_244 s j = FluctuatingMRTLatticeModel.kernel_collide.xi_244 (lane s j) := by
  simp only [
    kernel_collide.xi_244, FluctuatingMRTLatticeModel.kernel_collide.xi_244,
    kernel_collide.xi_107_lane s j,
    mm256_add_pd_apply, mm256_mul_pd_apply, mm256_div_pd_apply, mm256_sqrt_pd_apply,
    mm256_set_pd_apply, mm256_load_pd_apply, mm256_loadu_pd_add, mm256_loadu_pd_sub] <;>
  ring

theorem kernel_collide.xi_246_lane (s : Site K) (j : Fin 4) :
    kernel_collide.xi_246 s j = FluctuatingMRTLatticeModel.kernel_collide.xi_246 (lane s j) := by
  simp only [
    kernel_collide.xi_246, FluctuatingMRTLatticeModel.kernel_collide.xi_246,
    kernel_collide.random_1_1_lane s j, kernel_collide.xi_153_lane s j,
    mm256_add_pd_apply, mm256_mul_pd_apply, mm256_div_pd_apply, mm256_sqrt_pd_apply,
    mm256_set_pd_apply, mm256_load_pd_apply, mm256_loadu_pd_add, mm256_loadu_pd_sub] <;>
  ring

theorem kernel_collide.xi_251_lane (s : Site K) (j : Fin 4) :
    kernel_collide.xi_251 s j = FluctuatingMRTLatticeModel.kernel_collide.xi_251 (lane s j) := by
  simp only [
    kernel_collide.xi_251, FluctuatingMRTLatticeModel.kernel_collide.xi_251,
    kernel_collide.xi_170_lane s j, kernel_collide.xi_228_lane s j,
    mm256_add_pd_apply, mm256_mul_pd_apply, mm256_div_pd_apply, mm256_sqrt_pd_apply,
    mm256_set_pd_apply, mm256_load_pd_apply, mm256_loadu_pd_add, mm256_loadu_pd_sub] <;>
  ring

theorem kernel_collide.xi_252_lane (s : Site K) (j : Fin 4) :
    kernel_collide.xi_252 s j = FluctuatingMRTLatticeModel.kernel_collide.xi_252 (lane s j) := by
  simp only [
    kernel_collide.xi_252, FluctuatingMRTLatticeModel.kernel_collide.xi_252,
    kernel_collide.xi_174_lane s j, kernel_collide.xi_226_lane s j,
    mm256_add_pd_apply, mm256_mul_pd_apply, mm256_div_pd_apply, mm256_sqrt_pd_apply,
    mm256_set_pd_apply, mm256_load_pd_apply, mm256_loadu_pd_add, mm256_loadu_pd_sub] <;>
  ring

theorem kernel_collide.u_0_lane (s : Site K) (j : Fin 4) :
    kernel_collide.u_0 s j = FluctuatingMRTLatticeModel.kernel_collide.u_0 (lane s j) := by
  simp only [
    kernel_collide.u_0, FluctuatingMRTLatticeModel.kernel_collide.u_0, kernel_collide.xi_14_lane s
    j, kernel_collide.xi_19_lane s j, kernel_collide.vel0Term_lane s j, kernel_collide.xi_11_lane
    s j,
    mm256_add_pd_apply, mm256_mul_pd_apply, mm256_div_pd_apply, mm256_sqrt_pd_apply,
    mm256_set_pd_apply, mm256_load_pd_apply, mm256_loadu_pd_add, mm256_loadu_pd_sub] <;>
  ring

theorem kernel_collide.xi_41_lane (s : Site K) (j : Fin 4) :
    kernel_collide.xi_41 s j = FluctuatingMRTLatticeModel.kernel_collide.xi_41 (lane s j) := by
  simp only [
    kernel_collide.xi_41, FluctuatingMRTLatticeModel.kernel_collide.xi_41,
    kernel_collide.xi_277_lane s j, kernel_collide.u_0_lane s j,
    mm256_add_pd_apply, mm256_mul_pd_apply, mm256_div_pd_apply, mm256_sqrt_pd_apply,
    mm256_set_pd_apply, mm256_load_pd_apply, mm256_loadu_pd_add, mm256_loadu_pd_sub] <;>
  ring

theorem kernel_collide.xi_42_lane (s : Site K) (j : Fin 4) :
    kernel_collide.xi_42 s j = FluctuatingMRTLatticeModel.kernel_collide.xi_42 (lane s j) := by
  simp only [
    kernel_collide.xi_42, FluctuatingMRTLatticeModel.kernel_collide.xi_42,
    kernel_collide.xi_41_lane s j,
    mm256_add_pd_apply, mm256_mul_pd_apply, mm256_div_pd_apply, mm256_sqrt_pd_apply,
    mm256_set_pd_apply, mm256_load_pd_apply, mm256_loadu_pd_add, mm256_loadu_pd_sub] <;>
  ring

theorem kernel_collide.xi_48_lane (s : Site K) (j : Fin 4) :
    kernel_collide.xi_48 s j = FluctuatingMRTLatticeModel.kernel_collide.xi_48 (lane s j) := by
  simp only [
    kernel_collide.xi_48, FluctuatingMRTLatticeModel.kernel_collide.xi_48,
    kernel_collide.xi_42_lane s j,
    mm256_add_pd_apply, mm256_mul_pd_apply, mm256_div_pd_apply, mm256_sqrt_pd_apply,
    mm256_set_pd_apply, mm256_load_pd_apply, mm256_loadu_pd_add, mm256_loadu_pd_sub] <;>
  ring

theorem kernel_collide.xi_114_lane (s : Site K) (j : Fin 4) :
    kernel_collide.xi_114 s j = FluctuatingMRTLatticeModel.kernel_collide.xi_114 (lane s j) := by
  simp only [
    kernel_collide.xi_114, FluctuatingMRTLatticeModel.kernel_collide.xi_114,
    kernel_collide.rho_lane s j, kernel_collide.u_0_lane s j,
    mm256_add_pd_apply, mm256_mul_pd_apply, mm256_div_pd_apply, mm256_sqrt_pd_apply,
    mm256_set_pd_apply, mm256_load_pd_apply, mm256_loadu_pd_add, mm256_loadu_pd_sub] <;>
  ring

theorem kernel_collide.xi_165_lane (s : Site K) (j : Fin 4) :
    kernel_collide.xi_165 s j = FluctuatingMRTLatticeModel.kernel_collide.xi_165 (lane s j) := by
  simp only [
    kernel_collide.xi_165, FluctuatingMRTLatticeModel.kernel_collide.xi_165,
    kernel_collide.rho_lane s j, kernel_collide.u_0_lane s j,
    mm256_add_pd_apply, mm256_mul_pd_apply, mm256_div_pd_apply, mm256_sqrt_pd_apply,
    mm256_set_pd_apply, mm256_load_pd_apply, mm256_loadu_pd_add, mm256_loadu_pd_sub] <;>
  ring

theorem kernel_collide.xi_166_lane (s : Site K) (j : Fin 4) :
    kernel_collide.xi_166 s j = FluctuatingMRTLatticeModel.kernel_collide.xi_166 (lane s j) := by
  simp only [
    kernel_collide.xi_166, FluctuatingMRTLatticeModel.kernel_collide.xi_166,
    kernel_collide.xi_32_lane s j, kernel_collide.vel0Term_lane s j, kernel_collide.xi_165_lane s
    j,
    mm256_add_pd_apply, mm256_mul_pd_apply, mm256_div_pd_apply, mm256_sqrt_pd_apply,
    mm256_set_pd_apply, mm256_load_pd_apply, mm256_loadu_pd_add, mm256_loadu_pd_sub] <;>
  ring

theorem kernel_collide.xi_167_lane (s : Site K) (j : Fin 4) :
    kernel_collide.xi_167 s j = FluctuatingMRTLatticeModel.kernel_collide.xi_167 (lane s j) := by
  simp only [
    kernel_collide.xi_167, FluctuatingMRTLatticeModel.kernel_collide.xi_167,
    kernel_collide.xi_133_lane s j, kernel_collide.xi_166_lane s j,
    mm256_add_pd_apply, mm256_mul_pd_apply, mm256_div_pd_apply, mm256_sqrt_pd_apply,
    mm256_set_pd_apply, mm256_load_pd_apply, mm256_loadu_pd_add, mm256_loadu_pd_sub] <;>
  ring

theorem kernel_collide.xi_202_lane (s : Site K) (j : Fin 4) :
    kernel_collide.xi_202 s j = FluctuatingMRTLatticeModel.kernel_collide.xi_202 (lane s j) := by
  simp only [
    kernel_collide.xi_202, FluctuatingMRTLatticeModel.kernel_collide.xi_202,
    kernel_collide.xi_197_lane s j, kernel_collide.xi_166_lane s j,
    mm256_add_pd_apply, mm256_mul_pd_apply, mm256_div_pd_apply, mm256_sqrt_pd_apply,
    mm256_set_pd_apply, mm256_load_pd_apply, mm256_loadu_pd_add, mm256_loadu_pd_sub] <;>
  ring

theorem kernel_collide.u_1_lane (s : Site K) (j : Fin 4) :
    kernel_collide.u_1 s j = FluctuatingMRTLatticeModel.kernel_collide.u_1 (lane s j) := by
  simp only [
    kernel_collide.u_1, FluctuatingMRTLatticeModel.kernel_collide.u_1, kernel_collide.xi_17_lane s
    j, kernel_collide.xi_21_lane s j, kernel_collide.xi_25_lane s j, kernel_collide.vel1Term_lane
    s j, kernel_collide.xi_11_lane s j,
    mm256_add_pd_apply, mm256_mul_pd_apply, mm256_div_pd_apply, mm256_sqrt_pd_apply,
    mm256_set_pd_apply, mm256_load_pd_apply, mm256_loadu_pd_add, mm256_loadu_pd_sub] <;>
  ring

theorem kernel_collide.xi_43_lane (s : Site K) (j : Fin 4) :
    kernel_collide.xi_43 s j = FluctuatingMRTLatticeModel.kernel_collide.xi_43 (lane s j) := by
  simp only [
    kernel_collide.xi_43, FluctuatingMRTLatticeModel.kernel_collide.xi_43,
    kernel_collide.xi_271_lane s j, kernel_collide.u_1_lane s j,
    mm256_add_pd_apply, mm256_mul_pd_apply, mm256_div_pd_apply, mm256_sqrt_pd_apply,
    mm256_set_pd_apply, mm256_load_pd_apply, mm256_loadu_pd_add, mm256_loadu_pd_sub] <;>
  ring

theorem kernel_collide.xi_44_lane (s : Site K) (j : Fin 4) :
    kernel_collide.xi_44 s j = FluctuatingMRTLatticeModel.kernel_collide.xi_44 (lane s j) := by
  simp only [
    kernel_collide.xi_44, FluctuatingMRTLatticeModel.kernel_collide.xi_44,
    kernel_collide.xi_43_lane s j,
    mm256_add_pd_apply, mm256_mul_pd_apply, mm256_div_pd_apply, mm256_sqrt_pd_apply,
    mm256_set_pd_apply, mm256_load_pd_apply, mm256_loadu_pd_add, mm256_loadu_pd_sub] <;>
  ring

theorem kernel_collide.xi_49_lane (s : Site K) (j : Fin 4) :
    kernel_collide.xi_49 s j = FluctuatingMRTLatticeModel.kernel_collide.xi_49 (lane s j) := by
  simp only [
    kernel_collide.xi_49, FluctuatingMRTLatticeModel.kernel_collide.xi_49,
    kernel_collide.xi_44_lane s j,
    mm256_add_pd_apply, mm256_mul_pd_apply, mm256_div_pd_apply, mm256_sqrt_pd_apply,
    mm256_set_pd_apply, mm256_load_pd_apply, mm256_loadu_pd_add, mm256_loadu_pd_sub] <;>
  ring

theorem kernel_collide.xi_71_lane (s : Site K) (j : Fin 4) :
    kernel_collide.xi_71 s j = FluctuatingMRTLatticeModel.kernel_collide.xi_71 (lane s j) := by
  simp only [
    kernel_collide.xi_71, FluctuatingMRTLatticeModel.kernel_collide.xi_71, kernel_collide.u_1_lane
    s j,
    mm256_add_pd_apply, mm256_mul_pd_apply, mm256_div_pd_apply, mm256_sqrt_pd_apply,
    mm256_set_pd_apply, mm256_load_pd_apply, mm256_loadu_pd_add, mm256_loadu_pd_sub] <;>
  ring

theorem kernel_collide.xi_74_lane (s : Site K) (j : Fin 4) :
    kernel_collide.xi_74 s j = FluctuatingMRTLatticeModel.kernel_collide.xi_74 (lane s j) := by
  simp only [
    kernel_collide.xi_74, FluctuatingMRTLatticeModel.kernel_collide.xi_74,
    kernel_collide.xi_73_lane s j, kernel_collide.xi_277_lane s j, kernel_collide.xi_72_lane s j,
    kernel_collide.u_0_lane s j, kernel_collide.xi_71_lane s j,
    mm256_add_pd_apply, mm256_mul_pd_apply, mm256_div_pd_apply, mm256_sqrt_pd_apply,
    mm256_set_pd_apply, mm256_load_pd_apply, mm256_loadu_pd_add, mm256_loadu_pd_sub] <;>
  ring

theorem kernel_collide.xi_75_lane (s : Site K) (j : Fin 4) :
    kernel_collide.xi_75 s j = FluctuatingMRTLatticeModel.kernel_collide.xi_75 (lane s j) := by
  simp only [
    kernel_collide.xi_75, FluctuatingMRTLatticeModel.kernel_collide.xi_75,
    kernel_collide.xi_74_lane s j,
    mm256_add_pd_apply, mm256_mul_pd_apply, mm256_div_pd_apply, mm256_sqrt_pd_apply,
    mm256_set_pd_apply, mm256_load_pd_apply, mm256_loadu_pd_add, mm256_loadu_pd_sub] <;>
  ring

theorem kernel_collide.xi_119_lane (s : Site K) (j : Fin 4) :
    kernel_collide.xi_119 s j = FluctuatingMRTLatticeModel.kernel_collide.xi_119 (lane s j) := by
  simp only [
    kernel_collide.xi_119, FluctuatingMRTLatticeModel.kernel_collide.xi_119,
    kernel_collide.rho_lane s j, kernel_collide.u_1_lane s j,
    mm256_add_pd_apply, mm256_mul_pd_apply, mm256_div_pd_apply, mm256_sqrt_pd_apply,
    mm256_set_pd_apply, mm256_load_pd_apply, mm256_loadu_pd_add, mm256_loadu_pd_sub] <;>
  ring

theorem kernel_collide.xi_120_lane (s : Site K) (j : Fin 4) :
    kernel_collide.xi_120 s j = FluctuatingMRTLatticeModel.kernel_collide.xi_120 (lane s j) := by
  simp only [
    kernel_collide.xi_120, FluctuatingMRTLatticeModel.kernel_collide.xi_120,
    kernel_collide.xi_20_lane s j, kernel_collide.xi_118_lane s j, kernel_collide.xi_119_lane s j,
    mm256_add_pd_apply, mm256_mul_pd_apply, mm256_div_pd_apply, mm256_sqrt_pd_apply,
    mm256_set_pd_apply, mm256_load_pd_apply, mm256_loadu_pd_add, mm256_loadu_pd_sub] <;>
  ring

theorem kernel_collide.xi_131_lane (s : Site K) (j : Fin 4) :
    kernel_collide.xi_131 s j = FluctuatingMRTLatticeModel.kernel_collide.xi_131 (lane s j) := by
  simp only [
    kernel_collide.xi_131, FluctuatingMRTLatticeModel.kernel_collide.xi_131,
    kernel_collide.rho_lane s j, kernel_collide.u_1_lane s j,
    mm256_add_pd_apply, mm256_mul_pd_apply, mm256_div_pd_apply, mm256_sqrt_pd_apply,
    mm256_set_pd_apply, mm256_load_pd_apply, mm256_loadu_pd_add, mm256_loadu_pd_sub] <;>
  ring

theorem kernel_collide.xi_132_lane (s : Site K) (j : Fin 4) :
    kernel_collide.xi_132 s j = FluctuatingMRTLatticeModel.kernel_collide.xi_132 (lane s j) := by
  simp only [
    kernel_collide.xi_132, FluctuatingMRTLatticeModel.kernel_collide.xi_132,
    kernel_collide.xi_265_lane s j, kernel_collide.xi_37_lane s j, kernel_collide.xi_118_lane s j,
    kernel_collide.vel1Term_lane s j, kernel_collide.xi_131_lane s j,
    mm256_add_pd_apply, mm256_mul_pd_apply, mm256_div_pd_apply, mm256_sqrt_pd_apply,
    mm256_set_pd_apply, mm256_load_pd_apply, mm256_loadu_pd_add, mm256_loadu_pd_sub] <;>
  ring

theorem kernel_collide.xi_134_lane (s : Site K) (j : Fin 4) :
    kernel_collide.xi_134 s j = FluctuatingMRTLatticeModel.kernel_collide.xi_134 (lane s j) := by
  simp only [
    kernel_collide.xi_134, FluctuatingMRTLatticeModel.kernel_collide.xi_134,
    kernel_collide.xi_133_lane s j, kernel_collide.xi_132_lane s j,
    mm256_add_pd_apply, mm256_mul_pd_apply, mm256_div_pd_apply, mm256_sqrt_pd_apply,
    mm256_set_pd_apply, mm256_load_pd_apply, mm256_loadu_pd_add, mm256_loadu_pd_sub] <;>
  ring

theorem kernel_collide.xi_198_lane (s : Site K) (j : Fin 4) :
    kernel_collide.xi_198 s j = FluctuatingMRTLatticeModel.kernel_collide.xi_198 (lane s j) := by
  simp only [
    kernel_collide.xi_198, FluctuatingMRTLatticeModel.kernel_collide.xi_198,
    kernel_collide.xi_197_lane s j, kernel_collide.xi_132_lane s j,
    mm256_add_pd_apply, mm256_mul_pd_apply, mm256_div_pd_apply, mm256_sqrt_pd_apply,
    mm256_set_pd_apply, mm256_load_pd_apply, mm256_loadu_pd_add, mm256_loadu_pd_sub] <;>
  ring

theorem kernel_collide.u_2_lane (s : Site K) (j : Fin 4) :
    kernel_collide.u_2 s j = FluctuatingMRTLatticeModel.kernel_collide.u_2 (lane s j) := by
  simp only [
    kernel_collide.u_2, FluctuatingMRTLatticeModel.kernel_collide.u_2, kernel_collide.xi_272_lane
    s j, kernel_collide.xi_27_lane s j, kernel_collide.xi_30_lane s j,
    kernel_collide.vel2Term_lane s j, kernel_collide.xi_11_lane s j,
    mm256_add_pd_apply, mm256_mul_pd_apply, mm256_div_pd_apply, mm256_sqrt_pd_apply,
    mm256_set_pd_apply, mm256_load_pd_apply, mm256_loadu_pd_add, mm256_loadu_pd_sub] <;>
  ring

theorem kernel_collide.xi_45_lane (s : Site K) (j : Fin 4) :
    kernel_collide.xi_45 s j = FluctuatingMRTLatticeModel.kernel_collide.xi_45 (lane s j) := by
  simp only [
    kernel_collide.xi_45, FluctuatingMRTLatticeModel.kernel_collide.xi_45,
    kernel_collide.xi_273_lane s j, kernel_collide.u_2_lane s j,
    mm256_add_pd_apply, mm256_mul_pd_apply, mm256_div_pd_apply, mm256_sqrt_pd_apply,
    mm256_set_pd_apply, mm256_load_pd_apply, mm256_loadu_pd_add, mm256_loadu_pd_sub] <;>
  ring

theorem kernel_collide.xi_46_lane (s : Site K) (j : Fin 4) :
    kernel_collide.xi_46 s j = FluctuatingMRTLatticeModel.kernel_collide.xi_46 (lane s j) := by
  simp only [
    kernel_collide.xi_46, FluctuatingMRTLatticeModel.kernel_collide.xi_46,
    kernel_collide.xi_45_lane s j,
    mm256_add_pd_apply, mm256_mul_pd_apply, mm256_div_pd_apply, mm256_sqrt_pd_apply,
    mm256_set_pd_apply, mm256_load_pd_apply, mm256_loadu_pd_add, mm256_loadu_pd_sub] <;>
  ring

theorem kernel_collide.xi_47_lane (s : Site K) (j : Fin 4) :
    kernel_collide.xi_47 s j = FluctuatingMRTLatticeModel.kernel_collide.xi_47 (lane s j) := by
  simp only [
    kernel_collide.xi_47, FluctuatingMRTLatticeModel.kernel_collide.xi_47,
    kernel_collide.xi_40_lane s j, kernel_collide.xi_42_lane s j, kernel_collide.xi_44_lane s j,
    kernel_collide.xi_46_lane s j,
    mm256_add_pd_apply, mm256_mul_pd_apply, mm256_div_pd_apply, mm256_sqrt_pd_apply,
    mm256_set_pd_apply, mm256_load_pd_apply, mm256_loadu_pd_add, mm256_loadu_pd_sub] <;>
  ring

theorem kernel_collide.xi_50_lane (s : Site K) (j : Fin 4) :
    kernel_collide.xi_50 s j = FluctuatingMRTLatticeModel.kernel_collide.xi_50 (lane s j) := by
  simp only [
    kernel_collide.xi_50, FluctuatingMRTLatticeModel.kernel_collide.xi_50,
    kernel_collide.xi_48_lane s j, kernel_collide.xi_49_lane s j, kernel_collide.xi_45_lane s j,
    mm256_add_pd_apply, mm256_mul_pd_apply, mm256_div_pd_apply, mm256_sqrt_pd_apply,
    mm256_set_pd_apply, mm256_load_pd_apply, mm256_loadu_pd_add, mm256_loadu_pd_sub] <;>
  ring

theorem kernel_collide.xi_54_lane (s : Site K) (j : Fin 4) :
    kernel_collide.xi_54 s j = FluctuatingMRTLatticeModel.kernel_collide.xi_54 (lane s j) := by
  simp only [
    kernel_collide.xi_54, FluctuatingMRTLatticeModel.kernel_collide.xi_54,
    kernel_collide.xi_46_lane s j,
    mm256_add_pd_apply, mm256_mul_pd_apply, mm256_div_pd_apply, mm256_sqrt_pd_apply,
    mm256_set_pd_apply, mm256_load_pd_apply, mm256_loadu_pd_add, mm256_loadu_pd_sub] <;>
  ring

theorem kernel_collide.xi_55_lane (s : Site K) (j : Fin 4) :
    kernel_collide.xi_55 s j = FluctuatingMRTLatticeModel.kernel_collide.xi_55 (lane s j) := by
  simp only [
    kernel_collide.xi_55, FluctuatingMRTLatticeModel.kernel_collide.xi_55,
    kernel_collide.xi_48_lane s j, kernel_collide.xi_43_lane s j, kernel_collide.xi_54_lane s j,
    mm256_add_pd_apply, mm256_mul_pd_apply, mm256_div_pd_apply, mm256_sqrt_pd_apply,
    mm256_set_pd_apply, mm256_load_pd_apply, mm256_loadu_pd_add, mm256_loadu_pd_sub] <;>
  ring

theorem kernel_collide.xi_56_lane (s : Site K) (j : Fin 4) :
    kernel_collide.xi_56 s j = FluctuatingMRTLatticeModel.kernel_collide.xi_56 (lane s j) := by
  simp only [
    kernel_collide.xi_56, FluctuatingMRTLatticeModel.kernel_collide.xi_56,
    kernel_collide.xi_41_lane s j, kernel_collide.xi_49_lane s j, kernel_collide.xi_54_lane s j,
    mm256_add_pd_apply, mm256_mul_pd_apply, mm256_div_pd_apply, mm256_sqrt_pd_apply,
    mm256_set_pd_apply, mm256_load_pd_apply, mm256_loadu_pd_add, mm256_loadu_pd_sub] <;>
  ring

theorem kernel_collide.xi_59_lane (s : Site K) (j : Fin 4) :
    kernel_collide.xi_59 s j = FluctuatingMRTLatticeModel.kernel_collide.xi_59 (lane s j) := by
  simp only [
    kernel_collide.xi_59, FluctuatingMRTLatticeModel.kernel_collide.xi_59,
    kernel_collide.xi_58_lane s j, kernel_collide.xi_50_lane s j,
    mm256_add_pd_apply, mm256_mul_pd_apply, mm256_div_pd_apply, mm256_sqrt_pd_apply,
    mm256_set_pd_apply, mm256_load_pd_apply, mm256_loadu_pd_add, mm256_loadu_pd_sub] <;>
  ring

theorem kernel_collide.xi_60_lane (s : Site K) (j : Fin 4) :
    kernel_collide.xi_60 s j = FluctuatingMRTLatticeModel.kernel_collide.xi_60 (lane s j) := by
  simp only [
    kernel_collide.xi_60, FluctuatingMRTLatticeModel.kernel_collide.xi_60,
    kernel_collide.xi_59_lane s j,
    mm256_add_pd_apply, mm256_mul_pd_apply, mm256_div_pd_apply, mm256_sqrt_pd_apply,
    mm256_set_pd_apply, mm256_load_pd_apply, mm256_loadu_pd_add, mm256_loadu_pd_sub] <;>
  ring

theorem kernel_collide.xi_61_lane (s : Site K) (j : Fin 4) :
    kernel_collide.xi_61 s j = FluctuatingMRTLatticeModel.kernel_collide.xi_61 (lane s j) := by
  simp only [
    kernel_collide.xi_61, FluctuatingMRTLatticeModel.kernel_collide.xi_61,
    kernel_collide.xi_58_lane s j, kernel_collide.xi_56_lane s j,
    mm256_add_pd_apply, mm256_mul_pd_apply, mm256_div_pd_apply, mm256_sqrt_pd_apply,
    mm256_set_pd_apply, mm256_load_pd_apply, mm256_loadu_pd_add, mm256_loadu_pd_sub] <;>
  ring

theorem kernel_collide.xi_62_lane (s : Site K) (j : Fin 4) :
    kernel_collide.xi_62 s j = FluctuatingMRTLatticeModel.kernel_collide.xi_62 (lane s j) := by
  simp only [
    kernel_collide.xi_62, FluctuatingMRTLatticeModel.kernel_collide.xi_62,
    kernel_collide.xi_61_lane s j,
    mm256_add_pd_apply, mm256_mul_pd_apply, mm256_div_pd_apply, mm256_sqrt_pd_apply,
    mm256_set_pd_apply, mm256_load_pd_apply, mm256_loadu_pd_add, mm256_loadu_pd_sub] <;>
  ring

theorem kernel_collide.xi_64_lane (s : Site K) (j : Fin 4) :
    kernel_collide.xi_64 s j = FluctuatingMRTLatticeModel.kernel_collide.xi_64 (lane s j) := by
  simp only [
    kernel_collide.xi_64, FluctuatingMRTLatticeModel.kernel_collide.xi_64,
    kernel_collide.xi_63_lane s j, kernel_collide.xi_55_lane s j, kernel_collide.xi_60_lane s j,
    kernel_collide.xi_62_lane s j,
    mm256_add_pd_apply, mm256_mul_pd_apply, mm256_div_pd_apply, mm256_sqrt_pd_apply,
    mm256_set_pd_apply, mm256_load_pd_apply, mm256_loadu_pd_add, mm256_loadu_pd_sub] <;>
  ring

theorem kernel_collide.xi_66_lane (s : Site K) (j : Fin 4) :
    kernel_collide.xi_66 s j = FluctuatingMRTLatticeModel.kernel_collide.xi_66 (lane s j) := by
  simp only [
    kernel_collide.xi_66, FluctuatingMRTLatticeModel.kernel_collide.xi_66,
    kernel_collide.xi_58_lane s j, kernel_collide.xi_55_lane s j,
    mm256_add_pd_apply, mm256_mul_pd_apply, mm256_div_pd_apply, mm256_sqrt_pd_apply,
    mm256_set_pd_apply, mm256_load_pd_apply, mm256_loadu_pd_add, mm256_loadu_pd_sub] <;>
  ring

theorem kernel_collide.xi_67_lane (s : Site K) (j : Fin 4) :
    kernel_collide.xi_67 s j = FluctuatingMRTLatticeModel.kernel_collide.xi_67 (lane s j) := by
  simp only [
    kernel_collide.xi_67, FluctuatingMRTLatticeModel.kernel_collide.xi_67,
    kernel_collide.xi_66_lane s j,
    mm256_add_pd_apply, mm256_mul_pd_apply, mm256_div_pd_apply, mm256_sqrt_pd_apply,
    mm256_set_pd_apply, mm256_load_pd_apply, mm256_loadu_pd_add, mm256_loadu_pd_sub] <;>
  ring

theorem kernel_collide.xi_68_lane (s : Site K) (j : Fin 4) :
    kernel_collide.xi_68 s j = FluctuatingMRTLatticeModel.kernel_collide.xi_68 (lane s j) := by
  simp only [
    kernel_collide.xi_68, FluctuatingMRTLatticeModel.kernel_collide.xi_68,
    kernel_collide.xi_63_lane s j, kernel_collide.xi_56_lane s j, kernel_collide.xi_60_lane s j,
    kernel_collide.xi_67_lane s j,
    mm256_add_pd_apply, mm256_mul_pd_apply, mm256_div_pd_apply, mm256_sqrt_pd_apply,
    mm256_set_pd_apply, mm256_load_pd_apply, mm256_loadu_pd_add, mm256_loadu_pd_sub] <;>
  ring

theorem kernel_collide.xi_70_lane (s : Site K) (j : Fin 4) :
    kernel_collide.xi_70 s j = FluctuatingMRTLatticeModel.kernel_collide.xi_70 (lane s j) := by
  simp only [
    kernel_collide.xi_70, FluctuatingMRTLatticeModel.kernel_collide.xi_70,
    kernel_collide.xi_63_lane s j, kernel_collide.xi_50_lane s j, kernel_collide.xi_62_lane s j,
    kernel_collide.xi_67_lane s j,
    mm256_add_pd_apply, mm256_mul_pd_apply, mm256_div_pd_apply, mm256_sqrt_pd_apply,
    mm256_set_pd_apply, mm256_load_pd_apply, mm256_loadu_pd_add, mm256_loadu_pd_sub] <;>
  ring

theorem kernel_collide.xi_77_lane (s : Site K) (j : Fin 4) :
    kernel_collide.xi_77 s j = FluctuatingMRTLatticeModel.kernel_collide.xi_77 (lane s j) := by
  simp only [
    kernel_collide.xi_77, FluctuatingMRTLatticeModel.kernel_collide.xi_77,
    kernel_collide.xi_76_lane s j, kernel_collide.xi_61_lane s j,
    mm256_add_pd_apply, mm256_mul_pd_apply, mm256_div_pd_apply, mm256_sqrt_pd_apply,
    mm256_set_pd_apply, mm256_load_pd_apply, mm256_loadu_pd_add, mm256_loadu_pd_sub] <;>
  ring

theorem kernel_collide.xi_79_lane (s : Site K) (j : Fin 4) :
    kernel_collide.xi_79 s j = FluctuatingMRTLatticeModel.kernel_collide.xi_79 (lane s j) := by
  simp only [
    kernel_collide.xi_79, FluctuatingMRTLatticeModel.kernel_collide.xi_79,
    kernel_collide.xi_78_lane s j, kernel_collide.xi_50_lane s j,
    mm256_add_pd_apply, mm256_mul_pd_apply, mm256_div_pd_apply, mm256_sqrt_pd_apply,
    mm256_set_pd_apply, mm256_load_pd_apply, mm256_loadu_pd_add, mm256_loadu_pd_sub] <;>
  ring

theorem kernel_collide.xi_81_lane (s : Site K) (j : Fin 4) :
    kernel_collide.xi_81 s j = FluctuatingMRTLatticeModel.kernel_collide.xi_81 (lane s j) := by
  simp only [
    kernel_collide.xi_81, FluctuatingMRTLatticeModel.kernel_collide.xi_81,
    kernel_collide.xi_47_lane s j,
    mm256_add_pd_apply, mm256_mul_pd_apply, mm256_div_pd_apply, mm256_sqrt_pd_apply,
    mm256_set_pd_apply, mm256_load_pd_apply, mm256_loadu_pd_add, mm256_loadu_pd_sub] <;>
  ring

theorem kernel_collide.xi_82_lane (s : Site K) (j : Fin 4) :
    kernel_collide.xi_82 s j = FluctuatingMRTLatticeModel.kernel_collide.xi_82 (lane s j) := by
  simp only [
    kernel_collide.xi_82, FluctuatingMRTLatticeModel.kernel_collide.xi_82,
    kernel_collide.xi_66_lane s j, kernel_collide.xi_81_lane s j,
    mm256_add_pd_apply, mm256_mul_pd_apply, mm256_div_pd_apply, mm256_sqrt_pd_apply,
    mm256_set_pd_apply, mm256_load_pd_apply, mm256_loadu_pd_add, mm256_loadu_pd_sub] <;>
  ring

theorem kernel_collide.xi_83_lane (s : Site K) (j : Fin 4) :
    kernel_collide.xi_83 s j = FluctuatingMRTLatticeModel.kernel_collide.xi_83 (lane s j) := by
  simp only [
    kernel_collide.xi_83, FluctuatingMRTLatticeModel.kernel_collide.xi_83,
    kernel_collide.xi_80_lane s j, kernel_collide.xi_82_lane s j,
    mm256_add_pd_apply, mm256_mul_pd_apply, mm256_div_pd_apply, mm256_sqrt_pd_apply,
    mm256_set_pd_apply, mm256_load_pd_apply, mm256_loadu_pd_add, mm256_loadu_pd_sub] <;>
  ring

theorem kernel_collide.xi_84_lane (s : Site K) (j : Fin 4) :
    kernel_collide.xi_84 s j = FluctuatingMRTLatticeModel.kernel_collide.xi_84 (lane s j) := by
  simp only [
    kernel_collide.xi_84, FluctuatingMRTLatticeModel.kernel_collide.xi_84,
    kernel_collide.xi_79_lane s j, kernel_collide.xi_83_lane s j,
    mm256_add_pd_apply, mm256_mul_pd_apply, mm256_div_pd_apply, mm256_sqrt_pd_apply,
    mm256_set_pd_apply, mm256_load_pd_apply, mm256_loadu_pd_add, mm256_loadu_pd_sub] <;>
  ring

theorem kernel_collide.xi_85_lane (s : Site K) (j : Fin 4) :
    kernel_collide.xi_85 s j = FluctuatingMRTLatticeModel.kernel_collide.xi_85 (lane s j) := by
  simp only [
    kernel_collide.xi_85, FluctuatingMRTLatticeModel.kernel_collide.xi_85,
    kernel_collide.xi_76_lane s j, kernel_collide.xi_61_lane s j,
    mm256_add_pd_apply, mm256_mul_pd_apply, mm256_div_pd_apply, mm256_sqrt_pd_apply,
    mm256_set_pd_apply, mm256_load_pd_apply, mm256_loadu_pd_add, mm256_loadu_pd_sub] <;>
  ring

theorem kernel_collide.xi_86_lane (s : Site K) (j : Fin 4) :
    kernel_collide.xi_86 s j = FluctuatingMRTLatticeModel.kernel_collide.xi_86 (lane s j) := by
  simp only [
    kernel_collide.xi_86, FluctuatingMRTLatticeModel.kernel_collide.xi_86,
    kernel_collide.xi_80_lane s j, kernel_collide.xi_82_lane s j,
    mm256_add_pd_apply, mm256_mul_pd_apply, mm256_div_pd_apply, mm256_sqrt_pd_apply,
    mm256_set_pd_apply, mm256_load_pd_apply, mm256_loadu_pd_add, mm256_loadu_pd_sub] <;>
  ring

theorem kernel_collide.xi_87_lane (s : Site K) (j : Fin 4) :
    kernel_collide.xi_87 s j = FluctuatingMRTLatticeModel.kernel_collide.xi_87 (lane s j) := by
  simp only [
    kernel_collide.xi_87, FluctuatingMRTLatticeModel.kernel_collide.xi_87,
    kernel_collide.xi_79_lane s j, kernel_collide.xi_86_lane s j,
    mm256_add_pd_apply, mm256_mul_pd_apply, mm256_div_pd_apply, mm256_sqrt_pd_apply,
    mm256_set_pd_apply, mm256_load_pd_apply, mm256_loadu_pd_add, mm256_loadu_pd_sub] <;>
  ring

theorem kernel_collide.xi_88_lane (s : Site K) (j : Fin 4) :
    kernel_collide.xi_88 s j = FluctuatingMRTLatticeModel.kernel_collide.xi_88 (lane s j) := by
  simp only [
    kernel_collide.xi_88, FluctuatingMRTLatticeModel.kernel_collide.xi_88,
    kernel_collide.xi_73_lane s j, kernel_collide.xi_273_lane s j, kernel_collide.xi_72_lane s j,
    kernel_collide.xi_71_lane s j, kernel_collide.u_2_lane s j,
    mm256_add_pd_apply, mm256_mul_pd_apply, mm256_div_pd_apply, mm256_sqrt_pd_apply,
    mm256_set_pd_apply, mm256_load_pd_apply, mm256_loadu_pd_add, mm256_loadu_pd_sub] <;>
  ring

theorem kernel_collide.xi_89_lane (s : Site K) (j : Fin 4) :
    kernel_collide.xi_89 s j = FluctuatingMRTLatticeModel.kernel_collide.xi_89 (lane s j) := by
  simp only [
    kernel_collide.xi_89, FluctuatingMRTLatticeModel.kernel_collide.xi_89,
    kernel_collide.xi_78_lane s j, kernel_collide.xi_56_lane s j,
    mm256_add_pd_apply, mm256_mul_pd_apply, mm256_div_pd_apply, mm256_sqrt_pd_apply,
    mm256_set_pd_apply, mm256_load_pd_apply, mm256_loadu_pd_add, mm256_loadu_pd_sub] <;>
  ring

theorem kernel_collide.xi_91_lane (s : Site K) (j : Fin 4) :
    kernel_collide.xi_91 s j = FluctuatingMRTLatticeModel.kernel_collide.xi_91 (lane s j) := by
  simp only [
    kernel_collide.xi_91, FluctuatingMRTLatticeModel.kernel_collide.xi_91,
    kernel_collide.xi_90_lane s j, kernel_collide.xi_59_lane s j,
    mm256_add_pd_apply, mm256_mul_pd_apply, mm256_div_pd_apply, mm256_sqrt_pd_apply,
    mm256_set_pd_apply, mm256_load_pd_apply, mm256_loadu_pd_add, mm256_loadu_pd_sub] <;>
  ring

theorem kernel_collide.xi_92_lane (s : Site K) (j : Fin 4) :
    kernel_collide.xi_92 s j = FluctuatingMRTLatticeModel.kernel_collide.xi_92 (lane s j) := by
  simp only [
    kernel_collide.xi_92, FluctuatingMRTLatticeModel.kernel_collide.xi_92,
    kernel_collide.xi_89_lane s j, kernel_collide.xi_91_lane s j,
    mm256_add_pd_apply, mm256_mul_pd_apply, mm256_div_pd_apply, mm256_sqrt_pd_apply,
    mm256_set_pd_apply, mm256_load_pd_apply, mm256_loadu_pd_add, mm256_loadu_pd_sub] <;>
  ring

theorem kernel_collide.xi_93_lane (s : Site K) (j : Fin 4) :
    kernel_collide.xi_93 s j = FluctuatingMRTLatticeModel.kernel_collide.xi_93 (lane s j) := by
  simp only [
    kernel_collide.xi_93, FluctuatingMRTLatticeModel.kernel_collide.xi_93,
    kernel_collide.xi_88_lane s j,
    mm256_add_pd_apply, mm256_mul_pd_apply, mm256_div_pd_apply, mm256_sqrt_pd_apply,
    mm256_set_pd_apply, mm256_load_pd_apply, mm256_loadu_pd_add, mm256_loadu_pd_sub] <;>
  ring

theorem kernel_collide.xi_94_lane (s : Site K) (j : Fin 4) :
    kernel_collide.xi_94 s j = FluctuatingMRTLatticeModel.kernel_collide.xi_94 (lane s j) := by
  simp only [
    kernel_collide.xi_94, FluctuatingMRTLatticeModel.kernel_collide.xi_94,
    kernel_collide.xi_73_lane s j, kernel_collide.xi_273_lane s j, kernel_collide.xi_277_lane s j,
    kernel_collide.u_0_lane s j, kernel_collide.u_2_lane s j,
    mm256_add_pd_apply, mm256_mul_pd_apply, mm256_div_pd_apply, mm256_sqrt_pd_apply,
    mm256_set_pd_apply, mm256_load_pd_apply, mm256_loadu_pd_add, mm256_loadu_pd_sub] <;>
  ring

theorem kernel_collide.xi_95_lane (s : Site K) (j : Fin 4) :
    kernel_collide.xi_95 s j = FluctuatingMRTLatticeModel.kernel_collide.xi_95 (lane s j) := by
  simp only [
    kernel_collide.xi_95, FluctuatingMRTLatticeModel.kernel_collide.xi_95,
    kernel_collide.xi_94_lane s j,
    mm256_add_pd_apply, mm256_mul_pd_apply, mm256_div_pd_apply, mm256_sqrt_pd_apply,
    mm256_set_pd_apply, mm256_load_pd_apply, mm256_loadu_pd_add, mm256_loadu_pd_sub] <;>
  ring

theorem kernel_collide.xi_96_lane (s : Site K) (j : Fin 4) :
    kernel_collide.xi_96 s j = FluctuatingMRTLatticeModel.kernel_collide.xi_96 (lane s j) := by
  simp only [
    kernel_collide.xi_96, FluctuatingMRTLatticeModel.kernel_collide.xi_96,
    kernel_collide.xi_78_lane s j, kernel_collide.xi_55_lane s j,
    mm256_add_pd_apply, mm256_mul_pd_apply, mm256_div_pd_apply, mm256_sqrt_pd_apply,
    mm256_set_pd_apply, mm256_load_pd_apply, mm256_loadu_pd_add, mm256_loadu_pd_sub] <;>
  ring

theorem kernel_collide.xi_97_lane (s : Site K) (j : Fin 4) :
    kernel_collide.xi_97 s j = FluctuatingMRTLatticeModel.kernel_collide.xi_97 (lane s j) := by
  simp only [
    kernel_collide.xi_97, FluctuatingMRTLatticeModel.kernel_collide.xi_97,
    kernel_collide.xi_81_lane s j, kernel_collide.xi_91_lane s j, kernel_collide.xi_96_lane s j,
    mm256_add_pd_apply, mm256_mul_pd_apply, mm256_div_pd_apply, mm256_sqrt_pd_apply,
    mm256_set_pd_apply, mm256_load_pd_apply, mm256_loadu_pd_add, mm256_loadu_pd_sub] <;>
  ring

theorem kernel_collide.xi_98_lane (s : Site K) (j : Fin 4) :
    kernel_collide.xi_98 s j = FluctuatingMRTLatticeModel.kernel_collide.xi_98 (lane s j) := by
  simp only [
    kernel_collide.xi_98, FluctuatingMRTLatticeModel.kernel_collide.xi_98,
    kernel_collide.xi_90_lane s j, kernel_collide.xi_59_lane s j,
    mm256_add_pd_apply, mm256_mul_pd_apply, mm256_div_pd_apply, mm256_sqrt_pd_apply,
    mm256_set_pd_apply, mm256_load_pd_apply, mm256_loadu_pd_add, mm256_loadu_pd_sub] <;>
  ring

theorem kernel_collide.xi_99_lane (s : Site K) (j : Fin 4) :
    kernel_collide.xi_99 s j = FluctuatingMRTLatticeModel.kernel_collide.xi_99 (lane s j) := by
  simp only [
    kernel_collide.xi_99, FluctuatingMRTLatticeModel.kernel_collide.xi_99,
    kernel_collide.xi_89_lane s j, kernel_collide.xi_98_lane s j,
    mm256_add_pd_apply, mm256_mul_pd_apply, mm256_div_pd_apply, mm256_sqrt_pd_apply,
    mm256_set_pd_apply, mm256_load_pd_apply, mm256_loadu_pd_add, mm256_loadu_pd_sub] <;>
  ring

theorem kernel_collide.xi_100_lane (s : Site K) (j : Fin 4) :
    kernel_collide.xi_100 s j = FluctuatingMRTLatticeModel.kernel_collide.xi_100 (lane s j) := by
  simp only [
    kernel_collide.xi_100, FluctuatingMRTLatticeModel.kernel_collide.xi_100,
    kernel_collide.xi_81_lane s j, kernel_collide.xi_96_lane s j, kernel_collide.xi_98_lane s j,
    mm256_add_pd_apply, mm256_mul_pd_apply, mm256_div_pd_apply, mm256_sqrt_pd_apply,
    mm256_set_pd_apply, mm256_load_pd_apply, mm256_loadu_pd_add, mm256_loadu_pd_sub] <;>
  ring

theorem kernel_collide.xi_115_lane (s : Site K) (j : Fin 4) :
    kernel_collide.xi_115 s j = FluctuatingMRTLatticeModel.kernel_collide.xi_115 (lane s j) := by
  simp only [
    kernel_collide.xi_115, FluctuatingMRTLatticeModel.kernel_collide.xi_115,
    kernel_collide.rho_lane s j, kernel_collide.u_2_lane s j,
    mm256_add_pd_apply, mm256_mul_pd_apply, mm256_div_pd_apply, mm256_sqrt_pd_apply,
    mm256_set_pd_apply, mm256_load_pd_apply, mm256_loadu_pd_add, mm256_loadu_pd_sub] <;>
  ring

theorem kernel_collide.xi_123_lane (s : Site K) (j : Fin 4) :
    kernel_collide.xi_123 s j = FluctuatingMRTLatticeModel.kernel_collide.xi_123 (lane s j) := by
  simp only [
    kernel_collide.xi_123, FluctuatingMRTLatticeModel.kernel_collide.xi_123,
    kernel_collide.xi_263_lane s j, kernel_collide.xi_24_lane s j, kernel_collide.xi_28_lane s j,
    kernel_collide.xi_117_lane s j, kernel_collide.xi_122_lane s j, kernel_collide.xi_114_lane s
    j, kernel_collide.xi_120_lane s j, kernel_collide.xi_115_lane s j, lane_omega_bulk s j,
    mm256_add_pd_apply, mm256_mul_pd_apply, mm256_div_pd_apply, mm256_sqrt_pd_apply,
    mm256_set_pd_apply, mm256_load_pd_apply, mm256_loadu_pd_add, mm256_loadu_pd_sub] <;>
  ring

theorem kernel_collide.xi_155_lane (s : Site K) (j : Fin 4) :
    kernel_collide.xi_155 s j = FluctuatingMRTLatticeModel.kernel_collide.xi_155 (lane s j) := by
  simp only [
    kernel_collide.xi_155, FluctuatingMRTLatticeModel.kernel_collide.xi_155,
    kernel_collide.xi_261_lane s j, kernel_collide.xi_267_lane s j, kernel_collide.xi_115_lane s j,
    mm256_add_pd_apply, mm256_mul_pd_apply, mm256_div_pd_apply, mm256_sqrt_pd_apply,
    mm256_set_pd_apply, mm256_load_pd_apply, mm256_loadu_pd_add, mm256_loadu_pd_sub] <;>
  ring

theorem kernel_collide.xi_156_lane (s : Site K) (j : Fin 4) :
    kernel_collide.xi_156 s j = FluctuatingMRTLatticeModel.kernel_collide.xi_156 (lane s j) := by
  simp only [
    kernel_collide.xi_156, FluctuatingMRTLatticeModel.kernel_collide.xi_156,
    kernel_collide.xi_260_lane s j, kernel_collide.xi_1_lane s j, kernel_collide.xi_18_lane s j,
    kernel_collide.xi_23_lane s j, kernel_collide.xi_31_lane s j, kernel_collide.xi_120_lane s j,
    kernel_collide.xi_155_lane s j, lane_omega_shear s j,
    mm256_add_pd_apply, mm256_mul_pd_apply, mm256_div_pd_apply, mm256_sqrt_pd_apply,
    mm256_set_pd_apply, mm256_load_pd_apply, mm256_loadu_pd_add, mm256_loadu_pd_sub] <;>
  ring

theorem kernel_collide.xi_157_lane (s : Site K) (j : Fin 4) :
    kernel_collide.xi_157 s j = FluctuatingMRTLatticeModel.kernel_collide.xi_157 (lane s j) := by
  simp only [
    kernel_collide.xi_157, FluctuatingMRTLatticeModel.kernel_collide.xi_157,
    kernel_collide.xi_156_lane s j,
    mm256_add_pd_apply, mm256_mul_pd_apply, mm256_div_pd_apply, mm256_sqrt_pd_apply,
    mm256_set_pd_apply, mm256_load_pd_apply, mm256_loadu_pd_add, mm256_loadu_pd_sub] <;>
  ring

theorem kernel_collide.xi_159_lane (s : Site K) (j : Fin 4) :
    kernel_collide.xi_159 s j = FluctuatingMRTLatticeModel.kernel_collide.xi_159 (lane s j) := by
  simp only [
    kernel_collide.xi_159, FluctuatingMRTLatticeModel.kernel_collide.xi_159,
    kernel_collide.xi_260_lane s j, kernel_collide.xi_266_lane s j, kernel_collide.xi_268_lane s
    j, kernel_collide.xi_278_lane s j, kernel_collide.xi_20_lane s j, kernel_collide.xi_111_lane s
    j, kernel_collide.xi_118_lane s j, kernel_collide.xi_122_lane s j, kernel_collide.xi_114_lane
    s j, kernel_collide.xi_119_lane s j, kernel_collide.xi_155_lane s j, lane_omega_shear s j,
    mm256_add_pd_apply, mm256_mul_pd_apply, mm256_div_pd_apply, mm256_sqrt_pd_apply,
    mm256_set_pd_apply, mm256_load_pd_apply, mm256_loadu_pd_add, mm256_loadu_pd_sub] <;>
  ring

theorem kernel_collide.xi_161_lane (s : Site K) (j : Fin 4) :
    kernel_collide.xi_161 s j = FluctuatingMRTLatticeModel.kernel_collide.xi_161 (lane s j) := by
  simp only [
    kernel_collide.xi_161, FluctuatingMRTLatticeModel.kernel_collide.xi_161,
    kernel_collide.xi_160_lane s j, kernel_collide.xi_159_lane s j,
    mm256_add_pd_apply, mm256_mul_pd_apply, mm256_div_pd_apply, mm256_sqrt_pd_apply,
    mm256_set_pd_apply, mm256_load_pd_apply, mm256_loadu_pd_add, mm256_loadu_pd_sub] <;>
  ring

theorem kernel_collide.xi_162_lane (s : Site K) (j : Fin 4) :
    kernel_collide.xi_162 s j = FluctuatingMRTLatticeModel.kernel_collide.xi_162 (lane s j) := by
  simp only [
    kernel_collide.xi_162, FluctuatingMRTLatticeModel.kernel_collide.xi_162,
    kernel_collide.xi_110_lane s j, kernel_collide.xi_104_lane s j, kernel_collide.xi_161_lane s j,
    mm256_add_pd_apply, mm256_mul_pd_apply, mm256_div_pd_apply, mm256_sqrt_pd_apply,
    mm256_set_pd_apply, mm256_load_pd_apply, mm256_loadu_pd_add, mm256_loadu_pd_sub] <;>
  ring

theorem kernel_collide.xi_163_lane (s : Site K) (j : Fin 4) :
    kernel_collide.xi_163 s j = FluctuatingMRTLatticeModel.kernel_collide.xi_163 (lane s j) := by
  simp only [
    kernel_collide.xi_163, FluctuatingMRTLatticeModel.kernel_collide.xi_163,
    kernel_collide.xi_113_lane s j, kernel_collide.xi_107_lane s j, kernel_collide.xi_154_lane s
    j, kernel_collide.xi_158_lane s j, kernel_collide.xi_157_lane s j, kernel_collide.xi_162_lane
    s j,
    mm256_add_pd_apply, mm256_mul_pd_apply, mm256_div_pd_apply, mm256_sqrt_pd_apply,
    mm256_set_pd_apply, mm256_load_pd_apply, mm256_loadu_pd_add, mm256_loadu_pd_sub] <;>
  ring

theorem kernel_collide.xi_177_lane (s : Site K) (j : Fin 4) :
    kernel_collide.xi_177 s j = FluctuatingMRTLatticeModel.kernel_collide.xi_177 (lane s j) := by
  simp only [
    kernel_collide.xi_177, FluctuatingMRTLatticeModel.kernel_collide.xi_177,
    kernel_collide.xi_113_lane s j, kernel_collide.xi_107_lane s j, kernel_collide.xi_158_lane s
    j, kernel_collide.xi_160_lane s j, kernel_collide.xi_159_lane s j,
    mm256_add_pd_apply, mm256_mul_pd_apply, mm256_div_pd_apply, mm256_sqrt_pd_apply,
    mm256_set_pd_apply, mm256_load_pd_apply, mm256_loadu_pd_add, mm256_loadu_pd_sub] <;>
  ring

theorem kernel_collide.xi_182_lane (s : Site K) (j : Fin 4) :
    kernel_collide.xi_182 s j = FluctuatingMRTLatticeModel.kernel_collide.xi_182 (lane s j) := by
  simp only [
    kernel_collide.xi_182, FluctuatingMRTLatticeModel.kernel_collide.xi_182,
    kernel_collide.xi_262_lane s j, kernel_collide.xi_10_lane s j, kernel_collide.xi_116_lane s j,
    kernel_collide.xi_121_lane s j, kernel_collide.xi_179_lane s j, kernel_collide.vel2Term_lane s
    j, kernel_collide.rho_lane s j, kernel_collide.u_2_lane s j,
    mm256_add_pd_apply, mm256_mul_pd_apply, mm256_div_pd_apply, mm256_sqrt_pd_apply,
    mm256_set_pd_apply, mm256_load_pd_apply, mm256_loadu_pd_add, mm256_loadu_pd_sub] <;>
  ring

theorem kernel_collide.xi_183_lane (s : Site K) (j : Fin 4) :
    kernel_collide.xi_183 s j = FluctuatingMRTLatticeModel.kernel_collide.xi_183 (lane s j) := by
  simp only [
    kernel_collide.xi_183, FluctuatingMRTLatticeModel.kernel_collide.xi_183,
    kernel_collide.xi_133_lane s j, kernel_collide.xi_182_lane s j,
    mm256_add_pd_apply, mm256_mul_pd_apply, mm256_div_pd_apply, mm256_sqrt_pd_apply,
    mm256_set_pd_apply, mm256_load_pd_apply, mm256_loadu_pd_add, mm256_loadu_pd_sub] <;>
  ring

theorem kernel_collide.xi_191_lane (s : Site K) (j : Fin 4) :
    kernel_collide.xi_191 s j = FluctuatingMRTLatticeModel.kernel_collide.xi_191 (lane s j) := by
  simp only [
    kernel_collide.xi_191, FluctuatingMRTLatticeModel.kernel_collide.xi_191,
    kernel_collide.xi_113_lane s j, kernel_collide.xi_127_lane s j, kernel_collide.xi_103_lane s
    j, kernel_collide.xi_107_lane s j, kernel_collide.xi_154_lane s j, kernel_collide.xi_157_lane
    s j, kernel_collide.xi_162_lane s j,
    mm256_add_pd_apply, mm256_mul_pd_apply, mm256_div_pd_apply, mm256_sqrt_pd_apply,
    mm256_set_pd_apply, mm256_load_pd_apply, mm256_loadu_pd_add, mm256_loadu_pd_sub] <;>
  ring

theorem kernel_collide.xi_194_lane (s : Site K) (j : Fin 4) :
    kernel_collide.xi_194 s j = FluctuatingMRTLatticeModel.kernel_collide.xi_194 (lane s j) := by
  simp only [
    kernel_collide.xi_194, FluctuatingMRTLatticeModel.kernel_collide.xi_194,
    kernel_collide.xi_156_lane s j,
    mm256_add_pd_apply, mm256_mul_pd_apply, mm256_div_pd_apply, mm256_sqrt_pd_apply,
    mm256_set_pd_apply, mm256_load_pd_apply, mm256_loadu_pd_add, mm256_loadu_pd_sub] <;>
  ring

theorem kernel_collide.xi_199_lane (s : Site K) (j : Fin 4) :
    kernel_collide.xi_199 s j = FluctuatingMRTLatticeModel.kernel_collide.xi_199 (lane s j) := by
  simp only [
    kernel_collide.xi_199, FluctuatingMRTLatticeModel.kernel_collide.xi_199,
    kernel_collide.xi_106_lane s j, kernel_collide.xi_123_lane s j,
    mm256_add_pd_apply, mm256_mul_pd_apply, mm256_div_pd_apply, mm256_sqrt_pd_apply,
    mm256_set_pd_apply, mm256_load_pd_apply, mm256_loadu_pd_add, mm256_loadu_pd_sub] <;>
  ring

theorem kernel_collide.xi_200_lane (s : Site K) (j : Fin 4) :
    kernel_collide.xi_200 s j = FluctuatingMRTLatticeModel.kernel_collide.xi_200 (lane s j) := by
  simp only [
    kernel_collide.xi_200, FluctuatingMRTLatticeModel.kernel_collide.xi_200,
    kernel_collide.xi_198_lane s j, kernel_collide.xi_199_lane s j,
    mm256_add_pd_apply, mm256_mul_pd_apply, mm256_div_pd_apply, mm256_sqrt_pd_apply,
    mm256_set_pd_apply, mm256_load_pd_apply, mm256_loadu_pd_add, mm256_loadu_pd_sub] <;>
  ring

theorem kernel_collide.xi_201_lane (s : Site K) (j : Fin 4) :
    kernel_collide.xi_201 s j = FluctuatingMRTLatticeModel.kernel_collide.xi_201 (lane s j) := by
  simp only [
    kernel_collide.xi_201, FluctuatingMRTLatticeModel.kernel_collide.xi_201,
    kernel_collide.xi_195_lane s j, kernel_collide.xi_164_lane s j, kernel_collide.xi_193_lane s
    j, kernel_collide.xi_196_lane s j, kernel_collide.xi_194_lane s j, kernel_collide.xi_200_lane
    s j,
    mm256_add_pd_apply, mm256_mul_pd_apply, mm256_div_pd_apply, mm256_sqrt_pd_apply,
    mm256_set_pd_apply, mm256_load_pd_apply, mm256_loadu_pd_add, mm256_loadu_pd_sub] <;>
  ring

theorem kernel_collide.xi_203_lane (s : Site K) (j : Fin 4) :
    kernel_collide.xi_203 s j = FluctuatingMRTLatticeModel.kernel_collide.xi_203 (lane s j) := by
  simp only [
    kernel_collide.xi_203, FluctuatingMRTLatticeModel.kernel_collide.xi_203,
    kernel_collide.xi_160_lane s j, kernel_collide.xi_159_lane s j,
    mm256_add_pd_apply, mm256_mul_pd_apply, mm256_div_pd_apply, mm256_sqrt_pd_apply,
    mm256_set_pd_apply, mm256_load_pd_apply, mm256_loadu_pd_add, mm256_loadu_pd_sub] <;>
  ring

theorem kernel_collide.xi_204_lane (s : Site K) (j : Fin 4) :
    kernel_collide.xi_204 s j = FluctuatingMRTLatticeModel.kernel_collide.xi_204 (lane s j) := by
  simp only [
    kernel_collide.xi_204, FluctuatingMRTLatticeModel.kernel_collide.xi_204,
    kernel_collide.xi_202_lane s j, kernel_collide.xi_203_lane s j,
    mm256_add_pd_apply, mm256_mul_pd_apply, mm256_div_pd_apply, mm256_sqrt_pd_apply,
    mm256_set_pd_apply, mm256_load_pd_apply, mm256_loadu_pd_add, mm256_loadu_pd_sub] <;>
  ring

theorem kernel_collide.xi_205_lane (s : Site K) (j : Fin 4) :
    kernel_collide.xi_205 s j = FluctuatingMRTLatticeModel.kernel_collide.xi_205 (lane s j) := by
  simp only [
    kernel_collide.xi_205, FluctuatingMRTLatticeModel.kernel_collide.xi_205,
    kernel_collide.xi_178_lane s j, kernel_collide.xi_204_lane s j,
    mm256_add_pd_apply, mm256_mul_pd_apply, mm256_div_pd_apply, mm256_sqrt_pd_apply,
    mm256_set_pd_apply, mm256_load_pd_apply, mm256_loadu_pd_add, mm256_loadu_pd_sub] <;>
  ring

theorem kernel_collide.xi_211_lane (s : Site K) (j : Fin 4) :
    kernel_collide.xi_211 s j = FluctuatingMRTLatticeModel.kernel_collide.xi_211 (lane s j) := by
  simp only [
    kernel_collide.xi_211, FluctuatingMRTLatticeModel.kernel_collide.xi_211,
    kernel_collide.xi_202_lane s j, kernel_collide.xi_203_lane s j,
    mm256_add_pd_apply, mm256_mul_pd_apply, mm256_div_pd_apply, mm256_sqrt_pd_apply,
    mm256_set_pd_apply, mm256_load_pd_apply, mm256_loadu_pd_add, mm256_loadu_pd_sub] <;>
  ring

theorem kernel_collide.xi_212_lane (s : Site K) (j : Fin 4) :
    kernel_collide.xi_212 s j = FluctuatingMRTLatticeModel.kernel_collide.xi_212 (lane s j) := by
  simp only [
    kernel_collide.xi_212, FluctuatingMRTLatticeModel.kernel_collide.xi_212,
    kernel_collide.xi_176_lane s j, kernel_collide.xi_211_lane s j,
    mm256_add_pd_apply, mm256_mul_pd_apply, mm256_div_pd_apply, mm256_sqrt_pd_apply,
    mm256_set_pd_apply, mm256_load_pd_apply, mm256_loadu_pd_add, mm256_loadu_pd_sub] <;>
  ring

theorem kernel_collide.xi_213_lane (s : Site K) (j : Fin 4) :
    kernel_collide.xi_213 s j = FluctuatingMRTLatticeModel.kernel_collide.xi_213 (lane s j) := by
  simp only [
    kernel_collide.xi_213, FluctuatingMRTLatticeModel.kernel_collide.xi_213,
    kernel_collide.xi_198_lane s j, kernel_collide.xi_199_lane s j,
    mm256_add_pd_apply, mm256_mul_pd_apply, mm256_div_pd_apply, mm256_sqrt_pd_apply,
    mm256_set_pd_apply, mm256_load_pd_apply, mm256_loadu_pd_add, mm256_loadu_pd_sub] <;>
  ring

theorem kernel_collide.xi_214_lane (s : Site K) (j : Fin 4) :
    kernel_collide.xi_214 s j = FluctuatingMRTLatticeModel.kernel_collide.xi_214 (lane s j) := by
  simp only [
    kernel_collide.xi_214, FluctuatingMRTLatticeModel.kernel_collide.xi_214,
    kernel_collide.xi_195_lane s j, kernel_collide.xi_150_lane s j, kernel_collide.xi_193_lane s
    j, kernel_collide.xi_196_lane s j, kernel_collide.xi_194_lane s j, kernel_collide.xi_213_lane
    s j,
    mm256_add_pd_apply, mm256_mul_pd_apply, mm256_div_pd_apply, mm256_sqrt_pd_apply,
    mm256_set_pd_apply, mm256_load_pd_apply, mm256_loadu_pd_add, mm256_loadu_pd_sub] <;>
  ring

theorem kernel_collide.xi_230_lane (s : Site K) (j : Fin 4) :
    kernel_collide.xi_230 s j = FluctuatingMRTLatticeModel.kernel_collide.xi_230 (lane s j) := by
  simp only [
    kernel_collide.xi_230, FluctuatingMRTLatticeModel.kernel_collide.xi_230,
    kernel_collide.xi_197_lane s j, kernel_collide.xi_182_lane s j,
    mm256_add_pd_apply, mm256_mul_pd_apply, mm256_div_pd_apply, mm256_sqrt_pd_apply,
    mm256_set_pd_apply, mm256_load_pd_apply, mm256_loadu_pd_add, mm256_loadu_pd_sub] <;>
  ring

theorem kernel_collide.xi_232_lane (s : Site K) (j : Fin 4) :
    kernel_collide.xi_232 s j = FluctuatingMRTLatticeModel.kernel_collide.xi_232 (lane s j) := by
  simp only [
    kernel_collide.xi_232, FluctuatingMRTLatticeModel.kernel_collide.xi_232,
    kernel_collide.xi_231_lane s j, kernel_collide.xi_230_lane s j,
    mm256_add_pd_apply, mm256_mul_pd_apply, mm256_div_pd_apply, mm256_sqrt_pd_apply,
    mm256_set_pd_apply, mm256_load_pd_apply, mm256_loadu_pd_add, mm256_loadu_pd_sub] <;>
  ring

theorem kernel_collide.xi_233_lane (s : Site K) (j : Fin 4) :
    kernel_collide.xi_233 s j = FluctuatingMRTLatticeModel.kernel_collide.xi_233 (lane s j) := by
  simp only [
    kernel_collide.xi_233, FluctuatingMRTLatticeModel.kernel_collide.xi_233,
    kernel_collide.xi_223_lane s j, kernel_collide.xi_225_lane s j, kernel_collide.xi_227_lane s
    j, kernel_collide.xi_229_lane s j, kernel_collide.xi_232_lane s j,
    mm256_add_pd_apply, mm256_mul_pd_apply, mm256_div_pd_apply, mm256_sqrt_pd_apply,
    mm256_set_pd_apply, mm256_load_pd_apply, mm256_loadu_pd_add, mm256_loadu_pd_sub] <;>
  ring

theorem kernel_collide.xi_238_lane (s : Site K) (j : Fin 4) :
    kernel_collide.xi_238 s j = FluctuatingMRTLatticeModel.kernel_collide.xi_238 (lane s j) := by
  simp only [
    kernel_collide.xi_238, FluctuatingMRTLatticeModel.kernel_collide.xi_238,
    kernel_collide.xi_234_lane s j, kernel_collide.xi_235_lane s j, kernel_collide.xi_236_lane s
    j, kernel_collide.xi_237_lane s j, kernel_collide.xi_200_lane s j,
    mm256_add_pd_apply, mm256_mul_pd_apply, mm256_div_pd_apply, mm256_sqrt_pd_apply,
    mm256_set_pd_apply, mm256_load_pd_apply, mm256_loadu_pd_add, mm256_loadu_pd_sub] <;>
  ring

theorem kernel_collide.xi_239_lane (s : Site K) (j : Fin 4) :
    kernel_collide.xi_239 s j = FluctuatingMRTLatticeModel.kernel_collide.xi_239 (lane s j) := by
  simp only [
    kernel_collide.xi_239, FluctuatingMRTLatticeModel.kernel_collide.xi_239,
    kernel_collide.xi_234_lane s j, kernel_collide.xi_235_lane s j, kernel_collide.xi_236_lane s
    j, kernel_collide.xi_237_lane s j, kernel_collide.xi_213_lane s j,
    mm256_add_pd_apply, mm256_mul_pd_apply, mm256_div_pd_apply, mm256_sqrt_pd_apply,
    mm256_set_pd_apply, mm256_load_pd_apply, mm256_loadu_pd_add, mm256_loadu_pd_sub] <;>
  ring

theorem kernel_collide.xi_242_lane (s : Site K) (j : Fin 4) :
    kernel_collide.xi_242 s j = FluctuatingMRTLatticeModel.kernel_collide.xi_242 (lane s j) := by
  simp only [
    kernel_collide.xi_242, FluctuatingMRTLatticeModel.kernel_collide.xi_242,
    kernel_collide.xi_194_lane s j,
    mm256_add_pd_apply, mm256_mul_pd_apply, mm256_div_pd_apply, mm256_sqrt_pd_apply,
    mm256_set_pd_apply, mm256_load_pd_apply, mm256_loadu_pd_add, mm256_loadu_pd_sub] <;>
  ring

theorem kernel_collide.xi_245_lane (s : Site K) (j : Fin 4) :
    kernel_collide.xi_245 s j = FluctuatingMRTLatticeModel.kernel_collide.xi_245 (lane s j) := by
  simp only [
    kernel_collide.xi_245, FluctuatingMRTLatticeModel.kernel_collide.xi_245,
    kernel_collide.xi_243_lane s j, kernel_collide.xi_192_lane s j, kernel_collide.xi_241_lane s
    j, kernel_collide.xi_244_lane s j, kernel_collide.xi_199_lane s j, kernel_collide.xi_232_lane
    s j, kernel_collide.xi_242_lane s j,
    mm256_add_pd_apply, mm256_mul_pd_apply, mm256_div_pd_apply, mm256_sqrt_pd_apply,
    mm256_set_pd_apply, mm256_load_pd_apply, mm256_loadu_pd_add, mm256_loadu_pd_sub] <;>
  ring

theorem kernel_collide.xi_253_lane (s : Site K) (j : Fin 4) :
    kernel_collide.xi_253 s j = FluctuatingMRTLatticeModel.kernel_collide.xi_253 (lane s j) := by
  simp only [
    kernel_collide.xi_253, FluctuatingMRTLatticeModel.kernel_collide.xi_253,
    kernel_collide.xi_249_lane s j, kernel_collide.xi_250_lane s j, kernel_collide.xi_251_lane s
    j, kernel_collide.xi_252_lane s j, kernel_collide.xi_204_lane s j,
    mm256_add_pd_apply, mm256_mul_pd_apply, mm256_div_pd_apply, mm256_sqrt_pd_apply,
    mm256_set_pd_apply, mm256_load_pd_apply, mm256_loadu_pd_add, mm256_loadu_pd_sub] <;>
  ring

theorem kernel_collide.xi_255_lane (s : Site K) (j : Fin 4) :
    kernel_collide.xi_255 s j = FluctuatingMRTLatticeModel.kernel_collide.xi_255 (lane s j) := by
  simp only [
    kernel_collide.xi_255, FluctuatingMRTLatticeModel.kernel_collide.xi_255,
    kernel_collide.xi_249_lane s j, kernel_collide.xi_250_lane s j, kernel_collide.xi_251_lane s
    j, kernel_collide.xi_252_lane s j, kernel_collide.xi_211_lane s j,
    mm256_add_pd_apply, mm256_mul_pd_apply, mm256_div_pd_apply, mm256_sqrt_pd_apply,
    mm256_set_pd_apply, mm256_load_pd_apply, mm256_loadu_pd_add, mm256_loadu_pd_sub] <;>
  ring

theorem kernel_collide.xi_256_lane (s : Site K) (j : Fin 4) :
    kernel_collide.xi_256 s j = FluctuatingMRTLatticeModel.kernel_collide.xi_256 (lane s j) := by
  simp only [
    kernel_collide.xi_256, FluctuatingMRTLatticeModel.kernel_collide.xi_256,
    kernel_collide.xi_231_lane s j, kernel_collide.xi_230_lane s j,
    mm256_add_pd_apply, mm256_mul_pd_apply, mm256_div_pd_apply, mm256_sqrt_pd_apply,
    mm256_set_pd_apply, mm256_load_pd_apply, mm256_loadu_pd_add, mm256_loadu_pd_sub] <;>
  ring

theorem kernel_collide.xi_257_lane (s : Site K) (j : Fin 4) :
    kernel_collide.xi_257 s j = FluctuatingMRTLatticeModel.kernel_collide.xi_257 (lane s j) := by
  simp only [
    kernel_collide.xi_257, FluctuatingMRTLatticeModel.kernel_collide.xi_257,
    kernel_collide.xi_223_lane s j, kernel_collide.xi_225_lane s j, kernel_collide.xi_227_lane s
    j, kernel_collide.xi_229_lane s j, kernel_collide.xi_256_lane s j,
    mm256_add_pd_apply, mm256_mul_pd_apply, mm256_div_pd_apply, mm256_sqrt_pd_apply,
    mm256_set_pd_apply, mm256_load_pd_apply, mm256_loadu_pd_add, mm256_loadu_pd_sub] <;>
  ring

theorem kernel_collide.xi_258_lane (s : Site K) (j : Fin 4) :
    kernel_collide.xi_258 s j = FluctuatingMRTLatticeModel.kernel_collide.xi_258 (lane s j) := by
  simp only [
    kernel_collide.xi_258, FluctuatingMRTLatticeModel.kernel_collide.xi_258,
    kernel_collide.xi_243_lane s j, kernel_collide.xi_190_lane s j, kernel_collide.xi_241_lane s
    j, kernel_collide.xi_244_lane s j, kernel_collide.xi_199_lane s j, kernel_collide.xi_242_lane
    s j, kernel_collide.xi_256_lane s j,
    mm256_add_pd_apply, mm256_mul_pd_apply, mm256_div_pd_apply, mm256_sqrt_pd_apply,
    mm256_set_pd_apply, mm256_load_pd_apply, mm256_loadu_pd_add, mm256_loadu_pd_sub] <;>
  ring

theorem kernel_collide.p_0_lane (s : Site K) (j : Fin 4) :
    kernel_collide.p_0 s j = FluctuatingMRTLatticeModel.kernel_collide.p_0 (lane s j) := by
  simp only [
    kernel_collide.p_0, FluctuatingMRTLatticeModel.kernel_collide.p_0, kernel_collide.xi_2_lane s
    j, kernel_collide.xi_32_lane s j,
    mm256_add_pd_apply, mm256_mul_pd_apply, mm256_div_pd_apply, mm256_sqrt_pd_apply,
    mm256_set_pd_apply, mm256_load_pd_apply, mm256_loadu_pd_add, mm256_loadu_pd_sub] <;>
  ring

theorem kernel_collide.p_1_lane (s : Site K) (j : Fin 4) :
    kernel_collide.p_1 s j = FluctuatingMRTLatticeModel.kernel_collide.p_1 (lane s j) := by
  simp only [
    kernel_collide.p_1, FluctuatingMRTLatticeModel.kernel_collide.p_1, kernel_collide.xi_33_lane s
    j,
    mm256_add_pd_apply, mm256_mul_pd_apply, mm256_div_pd_apply, mm256_sqrt_pd_apply,
    mm256_set_pd_apply, mm256_load_pd_apply, mm256_loadu_pd_add, mm256_loadu_pd_sub] <;>
  ring

theorem kernel_collide.xi_208_lane (s : Site K) (j : Fin 4) :
    kernel_collide.xi_208 s j = FluctuatingMRTLatticeModel.kernel_collide.xi_208 (lane s j) := by
  simp only [
    kernel_collide.xi_208, FluctuatingMRTLatticeModel.kernel_collide.xi_208,
    kernel_collide.xi_207_lane s j, kernel_collide.u_0_lane s j, kernel_collide.xi_131_lane s j,
    kernel_collide.p_1_lane s j,
    mm256_add_pd_apply, mm256_mul_pd_apply, mm256_div_pd_apply, mm256_sqrt_pd_apply,
    mm256_set_pd_apply, mm256_load_pd_apply, mm256_loadu_pd_add, mm256_loadu_pd_sub] <;>
  ring

theorem kernel_collide.xi_209_lane (s : Site K) (j : Fin 4) :
    kernel_collide.xi_209 s j = FluctuatingMRTLatticeModel.kernel_collide.xi_209 (lane s j) := by
  simp only [
    kernel_collide.xi_209, FluctuatingMRTLatticeModel.kernel_collide.xi_209,
    kernel_collide.xi_206_lane s j, kernel_collide.xi_208_lane s j,
    mm256_add_pd_apply, mm256_mul_pd_apply, mm256_div_pd_apply, mm256_sqrt_pd_apply,
    mm256_set_pd_apply, mm256_load_pd_apply, mm256_loadu_pd_add, mm256_loadu_pd_sub] <;>
  ring

theorem kernel_collide.xi_210_lane (s : Site K) (j : Fin 4) :
    kernel_collide.xi_210 s j = FluctuatingMRTLatticeModel.kernel_collide.xi_210 (lane s j) := by
  simp only [
    kernel_collide.xi_210, FluctuatingMRTLatticeModel.kernel_collide.xi_210,
    kernel_collide.xi_206_lane s j, kernel_collide.xi_208_lane s j,
    mm256_add_pd_apply, mm256_mul_pd_apply, mm256_div_pd_apply, mm256_sqrt_pd_apply,
    mm256_set_pd_apply, mm256_load_pd_apply, mm256_loadu_pd_add, mm256_loadu_pd_sub] <;>
  ring

theorem kernel_collide.p_2_lane (s : Site K) (j : Fin 4) :
    kernel_collide.p_2 s j = FluctuatingMRTLatticeModel.kernel_collide.p_2 (lane s j) := by
  simp only [
    kernel_collide.p_2, FluctuatingMRTLatticeModel.kernel_collide.p_2, kernel_collide.xi_36_lane s
    j,
    mm256_add_pd_apply, mm256_mul_pd_apply, mm256_div_pd_apply, mm256_sqrt_pd_apply,
    mm256_set_pd_apply, mm256_load_pd_apply, mm256_loadu_pd_add, mm256_loadu_pd_sub] <;>
  ring

theorem kernel_collide.xi_247_lane (s : Site K) (j : Fin 4) :
    kernel_collide.xi_247 s j = FluctuatingMRTLatticeModel.kernel_collide.xi_247 (lane s j) := by
  simp only [
    kernel_collide.xi_247, FluctuatingMRTLatticeModel.kernel_collide.xi_247,
    kernel_collide.xi_207_lane s j, kernel_collide.xi_165_lane s j, kernel_collide.u_2_lane s j,
    kernel_collide.p_2_lane s j,
    mm256_add_pd_apply, mm256_mul_pd_apply, mm256_div_pd_apply, mm256_sqrt_pd_apply,
    mm256_set_pd_apply, mm256_load_pd_apply, mm256_loadu_pd_add, mm256_loadu_pd_sub] <;>
  ring

theorem kernel_collide.xi_248_lane (s : Site K) (j : Fin 4) :
    kernel_collide.xi_248 s j = FluctuatingMRTLatticeModel.kernel_collide.xi_248 (lane s j) := by
  simp only [
    kernel_collide.xi_248, FluctuatingMRTLatticeModel.kernel_collide.xi_248,
    kernel_collide.xi_246_lane s j, kernel_collide.xi_247_lane s j,
    mm256_add_pd_apply, mm256_mul_pd_apply, mm256_div_pd_apply, mm256_sqrt_pd_apply,
    mm256_set_pd_apply, mm256_load_pd_apply, mm256_loadu_pd_add, mm256_loadu_pd_sub] <;>
  ring

theorem kernel_collide.xi_254_lane (s : Site K) (j : Fin 4) :
    kernel_collide.xi_254 s j = FluctuatingMRTLatticeModel.kernel_collide.xi_254 (lane s j) := by
  simp only [
    kernel_collide.xi_254, FluctuatingMRTLatticeModel.kernel_collide.xi_254,
    kernel_collide.xi_246_lane s j, kernel_collide.xi_247_lane s j,
    mm256_add_pd_apply, mm256_mul_pd_apply, mm256_div_pd_apply, mm256_sqrt_pd_apply,
    mm256_set_pd_apply, mm256_load_pd_apply, mm256_loadu_pd_add, mm256_loadu_pd_sub] <;>
  ring

theorem kernel_collide.p_3_lane (s : Site K) (j : Fin 4) :
    kernel_collide.p_3 s j = FluctuatingMRTLatticeModel.kernel_collide.p_3 (lane s j) := by
  simp only [
    kernel_collide.p_3, FluctuatingMRTLatticeModel.kernel_collide.p_3, kernel_collide.xi_33_lane s
    j,
    mm256_add_pd_apply, mm256_mul_pd_apply, mm256_div_pd_apply, mm256_sqrt_pd_apply,
    mm256_set_pd_apply, mm256_load_pd_apply, mm256_loadu_pd_add, mm256_loadu_pd_sub] <;>
  ring

theorem kernel_collide.p_4_lane (s : Site K) (j : Fin 4) :
    kernel_collide.p_4 s j = FluctuatingMRTLatticeModel.kernel_collide.p_4 (lane s j) := by
  simp only [
    kernel_collide.p_4, FluctuatingMRTLatticeModel.kernel_collide.p_4, kernel_collide.xi_0_lane s
    j, kernel_collide.xi_5_lane s j, kernel_collide.xi_37_lane s j,
    mm256_add_pd_apply, mm256_mul_pd_apply, mm256_div_pd_apply, mm256_sqrt_pd_apply,
    mm256_set_pd_apply, mm256_load_pd_apply, mm256_loadu_pd_add, mm256_loadu_pd_sub] <;>
  ring

theorem kernel_collide.p_5_lane (s : Site K) (j : Fin 4) :
    kernel_collide.p_5 s j = FluctuatingMRTLatticeModel.kernel_collide.p_5 (lane s j) := by
  simp only [
    kernel_collide.p_5, FluctuatingMRTLatticeModel.kernel_collide.p_5, kernel_collide.xi_39_lane s
    j,
    mm256_add_pd_apply, mm256_mul_pd_apply, mm256_div_pd_apply, mm256_sqrt_pd_apply,
    mm256_set_pd_apply, mm256_load_pd_apply, mm256_loadu_pd_add, mm256_loadu_pd_sub] <;>
  ring

theorem kernel_collide.xi_217_lane (s : Site K) (j : Fin 4) :
    kernel_collide.xi_217 s j = FluctuatingMRTLatticeModel.kernel_collide.xi_217 (lane s j) := by
  simp only [
    kernel_collide.xi_217, FluctuatingMRTLatticeModel.kernel_collide.xi_217,
    kernel_collide.xi_207_lane s j, kernel_collide.xi_131_lane s j, kernel_collide.u_2_lane s j,
    kernel_collide.p_5_lane s j,
    mm256_add_pd_apply, mm256_mul_pd_apply, mm256_div_pd_apply, mm256_sqrt_pd_apply,
    mm256_set_pd_apply, mm256_load_pd_apply, mm256_loadu_pd_add, mm256_loadu_pd_sub] <;>
  ring

theorem kernel_collide.xi_221_lane (s : Site K) (j : Fin 4) :
    kernel_collide.xi_221 s j = FluctuatingMRTLatticeModel.kernel_collide.xi_221 (lane s j) := by
  simp only [
    kernel_collide.xi_221, FluctuatingMRTLatticeModel.kernel_collide.xi_221,
    kernel_collide.xi_216_lane s j, kernel_collide.xi_218_lane s j, kernel_collide.xi_215_lane s
    j, kernel_collide.xi_219_lane s j, kernel_collide.xi_220_lane s j, kernel_collide.xi_161_lane
    s j, kernel_collide.xi_217_lane s j,
    mm256_add_pd_apply, mm256_mul_pd_apply, mm256_div_pd_apply, mm256_sqrt_pd_apply,
    mm256_set_pd_apply, mm256_load_pd_apply, mm256_loadu_pd_add, mm256_loadu_pd_sub] <;>
  ring

theorem kernel_collide.xi_240_lane (s : Site K) (j : Fin 4) :
    kernel_collide.xi_240 s j = FluctuatingMRTLatticeModel.kernel_collide.xi_240 (lane s j) := by
  simp only [
    kernel_collide.xi_240, FluctuatingMRTLatticeModel.kernel_collide.xi_240,
    kernel_collide.xi_216_lane s j, kernel_collide.xi_218_lane s j, kernel_collide.xi_215_lane s
    j, kernel_collide.xi_219_lane s j, kernel_collide.xi_220_lane s j, kernel_collide.xi_161_lane
    s j, kernel_collide.xi_217_lane s j,
    mm256_add_pd_apply, mm256_mul_pd_apply, mm256_div_pd_apply, mm256_sqrt_pd_apply,
    mm256_set_pd_apply, mm256_load_pd_apply, mm256_loadu_pd_add, mm256_loadu_pd_sub] <;>
  ring

theorem kernel_collide.p_6_lane (s : Site K) (j : Fin 4) :
    kernel_collide.p_6 s j = FluctuatingMRTLatticeModel.kernel_collide.p_6 (lane s j) := by
  simp only [
    kernel_collide.p_6, FluctuatingMRTLatticeModel.kernel_collide.p_6, kernel_collide.xi_36_lane s
    j,
    mm256_add_pd_apply, mm256_mul_pd_apply, mm256_div_pd_apply, mm256_sqrt_pd_apply,
    mm256_set_pd_apply, mm256_load_pd_apply, mm256_loadu_pd_add, mm256_loadu_pd_sub] <;>
  ring

theorem kernel_collide.p_7_lane (s : Site K) (j : Fin 4) :
    kernel_collide.p_7 s j = FluctuatingMRTLatticeModel.kernel_collide.p_7 (lane s j) := by
  simp only [
    kernel_collide.p_7, FluctuatingMRTLatticeModel.kernel_collide.p_7, kernel_collide.xi_39_lane s
    j,
    mm256_add_pd_apply, mm256_mul_pd_apply, mm256_div_pd_apply, mm256_sqrt_pd_apply,
    mm256_set_pd_apply, mm256_load_pd_apply, mm256_loadu_pd_add, mm256_loadu_pd_sub] <;>
  ring

theorem kernel_collide.p_8_lane (s : Site K) (j : Fin 4) :
    kernel_collide.p_8 s j = FluctuatingMRTLatticeModel.kernel_collide.p_8 (lane s j) := by
  simp only [
    kernel_collide.p_8, FluctuatingMRTLatticeModel.kernel_collide.p_8, kernel_collide.xi_280_lane
    s j, kernel_collide.xi_1_lane s j, kernel_collide.xi_3_lane s j, kernel_collide.xi_7_lane s j,
    kernel_collide.xi_10_lane s j,
    mm256_add_pd_apply, mm256_mul_pd_apply, mm256_div_pd_apply, mm256_sqrt_pd_apply,
    mm256_set_pd_apply, mm256_load_pd_apply, mm256_loadu_pd_add, mm256_loadu_pd_sub] <;>
  ring

theorem kernel_collide.forceTerm_0_lane (s : Site K) (j : Fin 4) :
    kernel_collide.forceTerm_0 s j = FluctuatingMRTLatticeModel.kernel_collide.forceTerm_0 (lane s j) := by
  simp only [
    kernel_collide.forceTerm_0, FluctuatingMRTLatticeModel.kernel_collide.forceTerm_0,
    kernel_collide.xi_53_lane s j, kernel_collide.xi_47_lane s j, kernel_collide.xi_50_lane s j,
    kernel_collide.xi_55_lane s j, kernel_collide.xi_56_lane s j,
    mm256_add_pd_apply, mm256_mul_pd_apply, mm256_div_pd_apply, mm256_sqrt_pd_apply,
    mm256_set_pd_apply, mm256_load_pd_apply, mm256_loadu_pd_add, mm256_loadu_pd_sub] <;>
  ring

theorem kernel_collide.forceTerm_1_lane (s : Site K) (j : Fin 4) :
    kernel_collide.forceTerm_1 s j = FluctuatingMRTLatticeModel.kernel_collide.forceTerm_1 (lane s j) := by
  simp only [
    kernel_collide.forceTerm_1, FluctuatingMRTLatticeModel.kernel_collide.forceTerm_1,
    kernel_collide.xi_57_lane s j, kernel_collide.xi_64_lane s j,
    mm256_add_pd_apply, mm256_mul_pd_apply, mm256_div_pd_apply, mm256_sqrt_pd_apply,
    mm256_set_pd_apply, mm256_load_pd_apply, mm256_loadu_pd_add, mm256_loadu_pd_sub] <;>
  ring

theorem kernel_collide.forceTerm_2_lane (s : Site K) (j : Fin 4) :
    kernel_collide.forceTerm_2 s j = FluctuatingMRTLatticeModel.kernel_collide.forceTerm_2 (lane s j) := by
  simp only [
    kernel_collide.forceTerm_2, FluctuatingMRTLatticeModel.kernel_collide.forceTerm_2,
    kernel_collide.xi_57_lane s j, kernel_collide.xi_64_lane s j,
    mm256_add_pd_apply, mm256_mul_pd_apply, mm256_div_pd_apply, mm256_sqrt_pd_apply,
    mm256_set_pd_apply, mm256_load_pd_apply, mm256_loadu_pd_add, mm256_loadu_pd_sub] <;>
  ring

theorem kernel_collide.forceTerm_3_lane (s : Site K) (j : Fin 4) :
    kernel_collide.forceTerm_3 s j = FluctuatingMRTLatticeModel.kernel_collide.forceTerm_3 (lane s j) := by
  simp only [
    kernel_collide.forceTerm_3, FluctuatingMRTLatticeModel.kernel_collide.forceTerm_3,
    kernel_collide.xi_65_lane s j, kernel_collide.xi_68_lane s j,
    mm256_add_pd_apply, mm256_mul_pd_apply, mm256_div_pd_apply, mm256_sqrt_pd_apply,
    mm256_set_pd_apply, mm256_load_pd_apply, mm256_loadu_pd_add, mm256_loadu_pd_sub] <;>
  ring

theorem kernel_collide.forceTerm_4_lane (s : Site K) (j : Fin 4) :
    kernel_collide.forceTerm_4 s j = FluctuatingMRTLatticeModel.kernel_collide.forceTerm_4 (lane s j) := by
  simp only [
    kernel_collide.forceTerm_4, FluctuatingMRTLatticeModel.kernel_collide.forceTerm_4,
    kernel_collide.xi_65_lane s j, kernel_collide.xi_68_lane s j,
    mm256_add_pd_apply, mm256_mul_pd_apply, mm256_div_pd_apply, mm256_sqrt_pd_apply,
    mm256_set_pd_apply, mm256_load_pd_apply, mm256_loadu_pd_add, mm256_loadu_pd_sub] <;>
  ring

theorem kernel_collide.forceTerm_5_lane (s : Site K) (j : Fin 4) :
    kernel_collide.forceTerm_5 s j = FluctuatingMRTLatticeModel.kernel_collide.forceTerm_5 (lane s j) := by
  simp only [
    kernel_collide.forceTerm_5, FluctuatingMRTLatticeModel.kernel_collide.forceTerm_5,
    kernel_collide.xi_69_lane s j, kernel_collide.xi_70_lane s j,
    mm256_add_pd_apply, mm256_mul_pd_apply, mm256_div_pd_apply, mm256_sqrt_pd_apply,
    mm256_set_pd_apply, mm256_load_pd_apply, mm256_loadu_pd_add, mm256_loadu_pd_sub] <;>
  ring

theorem kernel_collide.forceTerm_6_lane (s : Site K) (j : Fin 4) :
    kernel_collide.forceTerm_6 s j = FluctuatingMRTLatticeModel.kernel_collide.forceTerm_6 (lane s j) := by
  simp only [
    kernel_collide.forceTerm_6, FluctuatingMRTLatticeModel.kernel_collide.forceTerm_6,
    kernel_collide.xi_69_lane s j, kernel_collide.xi_70_lane s j,
    mm256_add_pd_apply, mm256_mul_pd_apply, mm256_div_pd_apply, mm256_sqrt_pd_apply,
    mm256_set_pd_apply, mm256_load_pd_apply, mm256_loadu_pd_add, mm256_loadu_pd_sub] <;>
  ring

theorem kernel_collide.forceTerm_7_lane (s : Site K) (j : Fin 4) :
    kernel_collide.forceTerm_7 s j = FluctuatingMRTLatticeModel.kernel_collide.forceTerm_7 (lane s j) := by
  simp only [
    kernel_collide.forceTerm_7, FluctuatingMRTLatticeModel.kernel_collide.forceTerm_7,
    kernel_collide.xi_75_lane s j, kernel_collide.xi_77_lane s j, kernel_collide.xi_84_lane s j,
    mm256_add_pd_apply, mm256_mul_pd_apply, mm256_div_pd_apply, mm256_sqrt_pd_apply,
    mm256_set_pd_apply, mm256_load_pd_apply, mm256_loadu_pd_add, mm256_loadu_pd_sub] <;>
  ring

theorem kernel_collide.forceTerm_8_lane (s : Site K) (j : Fin 4) :
    kernel_collide.forceTerm_8 s j = FluctuatingMRTLatticeModel.kernel_collide.forceTerm_8 (lane s j) := by
  simp only [
    kernel_collide.forceTerm_8, FluctuatingMRTLatticeModel.kernel_collide.forceTerm_8,
    kernel_collide.xi_74_lane s j, kernel_collide.xi_84_lane s j, kernel_collide.xi_85_lane s j,
    mm256_add_pd_apply, mm256_mul_pd_apply, mm256_div_pd_apply, mm256_sqrt_pd_apply,
    mm256_set_pd_apply, mm256_load_pd_apply, mm256_loadu_pd_add, mm256_loadu_pd_sub] <;>
  ring

theorem kernel_collide.forceTerm_9_lane (s : Site K) (j : Fin 4) :
    kernel_collide.forceTerm_9 s j = FluctuatingMRTLatticeModel.kernel_collide.forceTerm_9 (lane s j) := by
  simp only [
    kernel_collide.forceTerm_9, FluctuatingMRTLatticeModel.kernel_collide.forceTerm_9,
    kernel_collide.xi_74_lane s j, kernel_collide.xi_77_lane s j, kernel_collide.xi_87_lane s j,
    mm256_add_pd_apply, mm256_mul_pd_apply, mm256_div_pd_apply, mm256_sqrt_pd_apply,
    mm256_set_pd_apply, mm256_load_pd_apply, mm256_loadu_pd_add, mm256_loadu_pd_sub] <;>
  ring

theorem kernel_collide.forceTerm_10_lane (s : Site K) (j : Fin 4) :
    kernel_collide.forceTerm_10 s j = FluctuatingMRTLatticeModel.kernel_collide.forceTerm_10 (lane s j) := by
  simp only [
    kernel_collide.forceTerm_10, FluctuatingMRTLatticeModel.kernel_collide.forceTerm_10,
    kernel_collide.xi_75_lane s j, kernel_collide.xi_85_lane s j, kernel_collide.xi_87_lane s j,
    mm256_add_pd_apply, mm256_mul_pd_apply, mm256_div_pd_apply, mm256_sqrt_pd_apply,
    mm256_set_pd_apply, mm256_load_pd_apply, mm256_loadu_pd_add, mm256_loadu_pd_sub] <;>
  ring

theorem kernel_collide.forceTerm_11_lane (s : Site K) (j : Fin 4) :
    kernel_collide.forceTerm_11 s j = FluctuatingMRTLatticeModel.kernel_collide.forceTerm_11 (lane s j) := by
  simp only [
    kernel_collide.forceTerm_11, FluctuatingMRTLatticeModel.kernel_collide.forceTerm_11,
    kernel_collide.xi_83_lane s j, kernel_collide.xi_88_lane s j, kernel_collide.xi_92_lane s j,
    mm256_add_pd_apply, mm256_mul_pd_apply, mm256_div_pd_apply, mm256_sqrt_pd_apply,
    mm256_set_pd_apply, mm256_load_pd_apply, mm256_loadu_pd_add, mm256_loadu_pd_sub] <;>
  ring

theorem kernel_collide.forceTerm_12_lane (s : Site K) (j : Fin 4) :
    kernel_collide.forceTerm_12 s j = FluctuatingMRTLatticeModel.kernel_collide.forceTerm_12 (lane s j) := by
  simp only [
    kernel_collide.forceTerm_12, FluctuatingMRTLatticeModel.kernel_collide.forceTerm_12,
    kernel_collide.xi_86_lane s j, kernel_collide.xi_92_lane s j, kernel_collide.xi_93_lane s j,
    mm256_add_pd_apply, mm256_mul_pd_apply, mm256_div_pd_apply, mm256_sqrt_pd_apply,
    mm256_set_pd_apply, mm256_load_pd_apply, mm256_loadu_pd_add, mm256_loadu_pd_sub] <;>
  ring

theorem kernel_collide.forceTerm_13_lane (s : Site K) (j : Fin 4) :
    kernel_collide.forceTerm_13 s j = FluctuatingMRTLatticeModel.kernel_collide.forceTerm_13 (lane s j) := by
  simp only [
    kernel_collide.forceTerm_13, FluctuatingMRTLatticeModel.kernel_collide.forceTerm_13,
    kernel_collide.xi_77_lane s j, kernel_collide.xi_95_lane s j, kernel_collide.xi_97_lane s j,
    mm256_add_pd_apply, mm256_mul_pd_apply, mm256_div_pd_apply, mm256_sqrt_pd_apply,
    mm256_set_pd_apply, mm256_load_pd_apply, mm256_loadu_pd_add, mm256_loadu_pd_sub] <;>
  ring

theorem kernel_collide.forceTerm_14_lane (s : Site K) (j : Fin 4) :
    kernel_collide.forceTerm_14 s j = FluctuatingMRTLatticeModel.kernel_collide.forceTerm_14 (lane s j) := by
  simp only [
    kernel_collide.forceTerm_14, FluctuatingMRTLatticeModel.kernel_collide.forceTerm_14,
    kernel_collide.xi_85_lane s j, kernel_collide.xi_94_lane s j, kernel_collide.xi_97_lane s j,
    mm256_add_pd_apply, mm256_mul_pd_apply, mm256_div_pd_apply, mm256_sqrt_pd_apply,
    mm256_set_pd_apply, mm256_load_pd_apply, mm256_loadu_pd_add, mm256_loadu_pd_sub] <;>
  ring

theorem kernel_collide.forceTerm_15_lane (s : Site K) (j : Fin 4) :
    kernel_collide.forceTerm_15 s j = FluctuatingMRTLatticeModel.kernel_collide.forceTerm_15 (lane s j) := by
  simp only [
    kernel_collide.forceTerm_15, FluctuatingMRTLatticeModel.kernel_collide.forceTerm_15,
    kernel_collide.xi_83_lane s j, kernel_collide.xi_93_lane s j, kernel_collide.xi_99_lane s j,
    mm256_add_pd_apply, mm256_mul_pd_apply, mm256_div_pd_apply, mm256_sqrt_pd_apply,
    mm256_set_pd_apply, mm256_load_pd_apply, mm256_loadu_pd_add, mm256_loadu_pd_sub] <;>
  ring

theorem kernel_collide.forceTerm_16_lane (s : Site K) (j : Fin 4) :
    kernel_collide.forceTerm_16 s j = FluctuatingMRTLatticeModel.kernel_collide.forceTerm_16 (lane s j) := by
  simp only [
    kernel_collide.forceTerm_16, FluctuatingMRTLatticeModel.kernel_collide.forceTerm_16,
    kernel_collide.xi_86_lane s j, kernel_collide.xi_88_lane s j, kernel_collide.xi_99_lane s j,
    mm256_add_pd_apply, mm256_mul_pd_apply, mm256_div_pd_apply, mm256_sqrt_pd_apply,
    mm256_set_pd_apply, mm256_load_pd_apply, mm256_loadu_pd_add, mm256_loadu_pd_sub] <;>
  ring

theorem kernel_collide.forceTerm_17_lane (s : Site K) (j : Fin 4) :
    kernel_collide.forceTerm_17 s j = FluctuatingMRTLatticeModel.kernel_collide.forceTerm_17 (lane s j) := by
  simp only [
    kernel_collide.forceTerm_17, FluctuatingMRTLatticeModel.kernel_collide.forceTerm_17,
    kernel_collide.xi_77_lane s j, kernel_collide.xi_94_lane s j, kernel_collide.xi_100_lane s j,
    mm256_add_pd_apply, mm256_mul_pd_apply, mm256_div_pd_apply, mm256_sqrt_pd_apply,
    mm256_set_pd_apply, mm256_load_pd_apply, mm256_loadu_pd_add, mm256_loadu_pd_sub] <;>
  ring

theorem kernel_collide.forceTerm_18_lane (s : Site K) (j : Fin 4) :
    kernel_collide.forceTerm_18 s j = FluctuatingMRTLatticeModel.kernel_collide.forceTerm_18 (lane s j) := by
  simp only [
    kernel_collide.forceTerm_18, FluctuatingMRTLatticeModel.kernel_collide.forceTerm_18,
    kernel_collide.xi_85_lane s j, kernel_collide.xi_95_lane s j, kernel_collide.xi_100_lane s j,
    mm256_add_pd_apply, mm256_mul_pd_apply, mm256_div_pd_apply, mm256_sqrt_pd_apply,
    mm256_set_pd_apply, mm256_load_pd_apply, mm256_loadu_pd_add, mm256_loadu_pd_sub] <;>
  ring

theorem kernel_collide.store_0_lane (s : Site K) (j : Fin 4) :
    kernel_collide.store_0 s j = FluctuatingMRTLatticeModel.kernel_collide.store_0 (lane s j) := by
  simp only [
    kernel_collide.store_0, FluctuatingMRTLatticeModel.kernel_collide.store_0,
    kernel_collide.xi_263_lane s j, kernel_collide.xi_110_lane s j, kernel_collide.xi_113_lane s
    j, kernel_collide.xi_127_lane s j, kernel_collide.xi_103_lane s j, kernel_collide.xi_104_lane
    s j, kernel_collide.xi_106_lane s j, kernel_collide.xi_107_lane s j,
    kernel_collide.xi_123_lane s j, kernel_collide.forceTerm_0_lane s j,
    mm256_add_pd_apply, mm256_mul_pd_apply, mm256_div_pd_apply, mm256_sqrt_pd_apply,
    mm256_set_pd_apply, mm256_load_pd_apply, mm256_loadu_pd_add, mm256_loadu_pd_sub] <;>
  ring

theorem kernel_collide.store_1_lane (s : Site K) (j : Fin 4) :
    kernel_collide.store_1 s j = FluctuatingMRTLatticeModel.kernel_collide.store_1 (lane s j) := by
  simp only [
    kernel_collide.store_1, FluctuatingMRTLatticeModel.kernel_collide.store_1,
    kernel_collide.xi_260_lane s j, kernel_collide.xi_130_lane s j, kernel_collide.xi_139_lane s
    j, kernel_collide.xi_150_lane s j, kernel_collide.xi_134_lane s j, kernel_collide.xi_163_lane
    s j, kernel_collide.forceTerm_1_lane s j,
    mm256_add_pd_apply, mm256_mul_pd_apply, mm256_div_pd_apply, mm256_sqrt_pd_apply,
    mm256_set_pd_apply, mm256_load_pd_apply, mm256_loadu_pd_add, mm256_loadu_pd_sub] <;>
  ring

theorem kernel_collide.store_2_lane (s : Site K) (j : Fin 4) :
    kernel_collide.store_2 s j = FluctuatingMRTLatticeModel.kernel_collide.store_2 (lane s j) := by
  simp only [
    kernel_collide.store_2, FluctuatingMRTLatticeModel.kernel_collide.store_2,
    kernel_collide.xi_278_lane s j, kernel_collide.xi_130_lane s j, kernel_collide.xi_139_lane s
    j, kernel_collide.xi_164_lane s j, kernel_collide.xi_134_lane s j, kernel_collide.xi_163_lane
    s j, kernel_collide.forceTerm_2_lane s j,
    mm256_add_pd_apply, mm256_mul_pd_apply, mm256_div_pd_apply, mm256_sqrt_pd_apply,
    mm256_set_pd_apply, mm256_load_pd_apply, mm256_loadu_pd_add, mm256_loadu_pd_sub] <;>
  ring

theorem kernel_collide.store_3_lane (s : Site K) (j : Fin 4) :
    kernel_collide.store_3 s j = FluctuatingMRTLatticeModel.kernel_collide.store_3 (lane s j) := by
  simp only [
    kernel_collide.store_3, FluctuatingMRTLatticeModel.kernel_collide.store_3,
    kernel_collide.xi_268_lane s j, kernel_collide.xi_169_lane s j, kernel_collide.xi_171_lane s
    j, kernel_collide.xi_176_lane s j, kernel_collide.xi_167_lane s j, kernel_collide.xi_177_lane
    s j, kernel_collide.forceTerm_3_lane s j,
    mm256_add_pd_apply, mm256_mul_pd_apply, mm256_div_pd_apply, mm256_sqrt_pd_apply,
    mm256_set_pd_apply, mm256_load_pd_apply, mm256_loadu_pd_add, mm256_loadu_pd_sub] <;>
  ring

theorem kernel_collide.store_4_lane (s : Site K) (j : Fin 4) :
    kernel_collide.store_4 s j = FluctuatingMRTLatticeModel.kernel_collide.store_4 (lane s j) := by
  simp only [
    kernel_collide.store_4, FluctuatingMRTLatticeModel.kernel_collide.store_4,
    kernel_collide.xi_266_lane s j, kernel_collide.xi_169_lane s j, kernel_collide.xi_171_lane s
    j, kernel_collide.xi_178_lane s j, kernel_collide.xi_167_lane s j, kernel_collide.xi_177_lane
    s j, kernel_collide.forceTerm_4_lane s j,
    mm256_add_pd_apply, mm256_mul_pd_apply, mm256_div_pd_apply, mm256_sqrt_pd_apply,
    mm256_set_pd_apply, mm256_load_pd_apply, mm256_loadu_pd_add, mm256_loadu_pd_sub] <;>
  ring

theorem kernel_collide.store_5_lane (s : Site K) (j : Fin 4) :
    kernel_collide.store_5 s j = FluctuatingMRTLatticeModel.kernel_collide.store_5 (lane s j) := by
  simp only [
    kernel_collide.store_5, FluctuatingMRTLatticeModel.kernel_collide.store_5,
    kernel_collide.xi_261_lane s j, kernel_collide.xi_181_lane s j, kernel_collide.xi_185_lane s
    j, kernel_collide.xi_190_lane s j, kernel_collide.xi_183_lane s j, kernel_collide.xi_191_lane
    s j, kernel_collide.forceTerm_5_lane s j,
    mm256_add_pd_apply, mm256_mul_pd_apply, mm256_div_pd_apply, mm256_sqrt_pd_apply,
    mm256_set_pd_apply, mm256_load_pd_apply, mm256_loadu_pd_add, mm256_loadu_pd_sub] <;>
  ring

theorem kernel_collide.store_6_lane (s : Site K) (j : Fin 4) :
    kernel_collide.store_6 s j = FluctuatingMRTLatticeModel.kernel_collide.store_6 (lane s j) := by
  simp only [
    kernel_collide.store_6, FluctuatingMRTLatticeModel.kernel_collide.store_6,
    kernel_collide.xi_267_lane s j, kernel_collide.xi_181_lane s j, kernel_collide.xi_185_lane s
    j, kernel_collide.xi_192_lane s j, kernel_collide.xi_183_lane s j, kernel_collide.xi_191_lane
    s j, kernel_collide.forceTerm_6_lane s j,
    mm256_add_pd_apply, mm256_mul_pd_apply, mm256_div_pd_apply, mm256_sqrt_pd_apply,
    mm256_set_pd_apply, mm256_load_pd_apply, mm256_loadu_pd_add, mm256_loadu_pd_sub] <;>
  ring

theorem kernel_collide.store_7_lane (s : Site K) (j : Fin 4) :
    kernel_collide.store_7 s j = FluctuatingMRTLatticeModel.kernel_collide.store_7 (lane s j) := by
  simp only [
    kernel_collide.store_7, FluctuatingMRTLatticeModel.kernel_collide.store_7,
    kernel_collide.xi_269_lane s j, kernel_collide.xi_201_lane s j, kernel_collide.xi_205_lane s
    j, kernel_collide.xi_209_lane s j, kernel_collide.forceTerm_7_lane s j,
    mm256_add_pd_apply, mm256_mul_pd_apply, mm256_div_pd_apply, mm256_sqrt_pd_apply,
    mm256_set_pd_apply, mm256_load_pd_apply, mm256_loadu_pd_add, mm256_loadu_pd_sub] <;>
  ring

theorem kernel_collide.store_8_lane (s : Site K) (j : Fin 4) :
    kernel_collide.store_8 s j = FluctuatingMRTLatticeModel.kernel_collide.store_8 (lane s j) := by
  simp only [
    kernel_collide.store_8, FluctuatingMRTLatticeModel.kernel_collide.store_8,
    kernel_collide.xi_259_lane s j, kernel_collide.xi_201_lane s j, kernel_collide.xi_212_lane s
    j, kernel_collide.xi_210_lane s j, kernel_collide.forceTerm_8_lane s j,
    mm256_add_pd_apply, mm256_mul_pd_apply, mm256_div_pd_apply, mm256_sqrt_pd_apply,
    mm256_set_pd_apply, mm256_load_pd_apply, mm256_loadu_pd_add, mm256_loadu_pd_sub] <;>
  ring

theorem kernel_collide.store_9_lane (s : Site K) (j : Fin 4) :
    kernel_collide.store_9 s j = FluctuatingMRTLatticeModel.kernel_collide.store_9 (lane s j) := by
  simp only [
    kernel_collide.store_9, FluctuatingMRTLatticeModel.kernel_collide.store_9,
    kernel_collide.xi_274_lane s j, kernel_collide.xi_205_lane s j, kernel_collide.xi_214_lane s
    j, kernel_collide.xi_210_lane s j, kernel_collide.forceTerm_9_lane s j,
    mm256_add_pd_apply, mm256_mul_pd_apply, mm256_div_pd_apply, mm256_sqrt_pd_apply,
    mm256_set_pd_apply, mm256_load_pd_apply, mm256_loadu_pd_add, mm256_loadu_pd_sub] <;>
  ring

theorem kernel_collide.store_10_lane (s : Site K) (j : Fin 4) :
    kernel_collide.store_10 s j = FluctuatingMRTLatticeModel.kernel_collide.store_10 (lane s j) := by
  simp only [
    kernel_collide.store_10, FluctuatingMRTLatticeModel.kernel_collide.store_10,
    kernel_collide.xi_265_lane s j, kernel_collide.xi_212_lane s j, kernel_collide.xi_214_lane s
    j, kernel_collide.xi_209_lane s j, kernel_collide.forceTerm_10_lane s j,
    mm256_add_pd_apply, mm256_mul_pd_apply, mm256_div_pd_apply, mm256_sqrt_pd_apply,
    mm256_set_pd_apply, mm256_load_pd_apply, mm256_loadu_pd_add, mm256_loadu_pd_sub] <;>
  ring

theorem kernel_collide.store_11_lane (s : Site K) (j : Fin 4) :
    kernel_collide.store_11 s j = FluctuatingMRTLatticeModel.kernel_collide.store_11 (lane s j) := by
  simp only [
    kernel_collide.store_11, FluctuatingMRTLatticeModel.kernel_collide.store_11,
    kernel_collide.xi_264_lane s j, kernel_collide.xi_233_lane s j, kernel_collide.xi_238_lane s
    j, kernel_collide.xi_221_lane s j, kernel_collide.forceTerm_11_lane s j,
    mm256_add_pd_apply, mm256_mul_pd_apply, mm256_div_pd_apply, mm256_sqrt_pd_apply,
    mm256_set_pd_apply, mm256_load_pd_apply, mm256_loadu_pd_add, mm256_loadu_pd_sub] <;>
  ring

theorem kernel_collide.store_12_lane (s : Site K) (j : Fin 4) :
    kernel_collide.store_12 s j = FluctuatingMRTLatticeModel.kernel_collide.store_12 (lane s j) := by
  simp only [
    kernel_collide.store_12, FluctuatingMRTLatticeModel.kernel_collide.store_12,
    kernel_collide.xi_279_lane s j, kernel_collide.xi_233_lane s j, kernel_collide.xi_239_lane s
    j, kernel_collide.xi_240_lane s j, kernel_collide.forceTerm_12_lane s j,
    mm256_add_pd_apply, mm256_mul_pd_apply, mm256_div_pd_apply, mm256_sqrt_pd_apply,
    mm256_set_pd_apply, mm256_load_pd_apply, mm256_loadu_pd_add, mm256_loadu_pd_sub] <;>
  ring

theorem kernel_collide.store_13_lane (s : Site K) (j : Fin 4) :
    kernel_collide.store_13 s j = FluctuatingMRTLatticeModel.kernel_collide.store_13 (lane s j) := by
  simp only [
    kernel_collide.store_13, FluctuatingMRTLatticeModel.kernel_collide.store_13,
    kernel_collide.xi_275_lane s j, kernel_collide.xi_245_lane s j, kernel_collide.xi_253_lane s
    j, kernel_collide.xi_248_lane s j, kernel_collide.forceTerm_13_lane s j,
    mm256_add_pd_apply, mm256_mul_pd_apply, mm256_div_pd_apply, mm256_sqrt_pd_apply,
    mm256_set_pd_apply, mm256_load_pd_apply, mm256_loadu_pd_add, mm256_loadu_pd_sub] <;>
  ring

theorem kernel_collide.store_14_lane (s : Site K) (j : Fin 4) :
    kernel_collide.store_14 s j = FluctuatingMRTLatticeModel.kernel_collide.store_14 (lane s j) := by
  simp only [
    kernel_collide.store_14, FluctuatingMRTLatticeModel.kernel_collide.store_14,
    kernel_collide.xi_272_lane s j, kernel_collide.xi_245_lane s j, kernel_collide.xi_255_lane s
    j, kernel_collide.xi_254_lane s j, kernel_collide.forceTerm_14_lane s j,
    mm256_add_pd_apply, mm256_mul_pd_apply, mm256_div_pd_apply, mm256_sqrt_pd_apply,
    mm256_set_pd_apply, mm256_load_pd_apply, mm256_loadu_pd_add, mm256_loadu_pd_sub] <;>
  ring

theorem kernel_collide.store_15_lane (s : Site K) (j : Fin 4) :
    kernel_collide.store_15 s j = FluctuatingMRTLatticeModel.kernel_collide.store_15 (lane s j) := by
  simp only [
    kernel_collide.store_15, FluctuatingMRTLatticeModel.kernel_collide.store_15,
    kernel_collide.xi_270_lane s j, kernel_collide.xi_238_lane s j, kernel_collide.xi_257_lane s
    j, kernel_collide.xi_240_lane s j, kernel_collide.forceTerm_15_lane s j,
    mm256_add_pd_apply, mm256_mul_pd_apply, mm256_div_pd_apply, mm256_sqrt_pd_apply,
    mm256_set_pd_apply, mm256_load_pd_apply, mm256_loadu_pd_add, mm256_loadu_pd_sub] <;>
  ring

theorem kernel_collide.store_16_lane (s : Site K) (j : Fin 4) :
    kernel_collide.store_16 s j = FluctuatingMRTLatticeModel.kernel_collide.store_16 (lane s j) := by
  simp only [
    kernel_collide.store_16, FluctuatingMRTLatticeModel.kernel_collide.store_16,
    kernel_collide.xi_280_lane s j, kernel_collide.xi_239_lane s j, kernel_collide.xi_257_lane s
    j, kernel_collide.xi_221_lane s j, kernel_collide.forceTerm_16_lane s j,
    mm256_add_pd_apply, mm256_mul_pd_apply, mm256_div_pd_apply, mm256_sqrt_pd_apply,
    mm256_set_pd_apply, mm256_load_pd_apply, mm256_loadu_pd_add, mm256_loadu_pd_sub] <;>
  ring

theorem kernel_collide.store_17_lane (s : Site K) (j : Fin 4) :
    kernel_collide.store_17 s j = FluctuatingMRTLatticeModel.kernel_collide.store_17 (lane s j) := by
  simp only [
    kernel_collide.store_17, FluctuatingMRTLatticeModel.kernel_collide.store_17,
    kernel_collide.xi_276_lane s j, kernel_collide.xi_253_lane s j, kernel_collide.xi_258_lane s
    j, kernel_collide.xi_254_lane s j, kernel_collide.forceTerm_17_lane s j,
    mm256_add_pd_apply, mm256_mul_pd_apply, mm256_div_pd_apply, mm256_sqrt_pd_apply,
    mm256_set_pd_apply, mm256_load_pd_apply, mm256_loadu_pd_add, mm256_loadu_pd_sub] <;>
  ring

theorem kernel_collide.store_18_lane (s : Site K) (j : Fin 4) :
    kernel_collide.store_18 s j = FluctuatingMRTLatticeModel.kernel_collide.store_18 (lane s j) := by
  simp only [
    kernel_collide.store_18, FluctuatingMRTLatticeModel.kernel_collide.store_18,
    kernel_collide.xi_262_lane s j, kernel_collide.xi_255_lane s j, kernel_collide.xi_258_lane s
    j, kernel_collide.xi_248_lane s j, kernel_collide.forceTerm_18_lane s j,
    mm256_add_pd_apply, mm256_mul_pd_apply, mm256_div_pd_apply, mm256_sqrt_pd_apply,
    mm256_set_pd_apply, mm256_load_pd_apply, mm256_loadu_pd_add, mm256_loadu_pd_sub] <;>
  ring

/-- Lane `j` of the vectorised loop body is the scalar loop body at the cell `ctr_0 + j`. -/
theorem kernel_collide.values_lane (s : Site K) (q : Fin 19) (j : Fin 4) :
    kernel_collide.values s q j = FluctuatingMRTLatticeModel.kernel_collide.values (lane s j) q := by
  revert q
  rw [forall_fin19]
  refine ⟨kernel_collide.store_0_lane s j, kernel_collide.store_1_lane s j, kernel_collide.store_2_lane
    s j, kernel_collide.store_3_lane s j, kernel_collide.store_4_lane s j,
    kernel_collide.store_5_lane s j, kernel_collide.store_6_lane s j, kernel_collide.store_7_lane
    s j, kernel_collide.store_8_lane s j, kernel_collide.store_9_lane s j,
    kernel_collide.store_10_lane s j, kernel_collide.store_11_lane s j,
    kernel_collide.store_12_lane s j, kernel_collide.store_13_lane s j,
    kernel_collide.store_14_lane s j, kernel_collide.store_15_lane s j,
    kernel_collide.store_16_lane s j, kernel_collide.store_17_lane s j,
    kernel_collide.store_18_lane s j⟩

theorem kernel_streamCollide.xi_40_lane_fused (s : Site K) (j : Fin 4) :
    kernel_streamCollide.xi_40 s = FluctuatingMRTLatticeModel.kernel_streamCollide.xi_40 (lane s j) := by
  simp only [
    kernel_streamCollide.xi_40, FluctuatingMRTLatticeModel.kernel_streamCollide.xi_40,
    lane_omega_bulk s j] <;>
  ring

theorem kernel_streamCollide.xi_51_lane_fused (s : Site K) (j : Fin 4) :
    kernel_streamCollide.xi_51 s = FluctuatingMRTLatticeModel.kernel_streamCollide.xi_51 (lane s j) := by
  simp only [
    kernel_streamCollide.xi_51, FluctuatingMRTLatticeModel.kernel_streamCollide.xi_51,
    lane_omega_shear s j] <;>
  ring

theorem kernel_streamCollide.xi_52_lane_fused (s : Site K) (j : Fin 4) :
    kernel_streamCollide.xi_52 s = FluctuatingMRTLatticeModel.kernel_streamCollide.xi_52 (lane s j) := by
  simp only [
    kernel_streamCollide.xi_52, FluctuatingMRTLatticeModel.kernel_streamCollide.xi_52,
    kernel_streamCollide.xi_51_lane_fused s j] <;>
  ring

theorem kernel_streamCollide.xi_53_lane_fused (s : Site K) (j : Fin 4) :
    kernel_streamCollide.xi_53 s = FluctuatingMRTLatticeModel.kernel_streamCollide.xi_53 (lane s j) := by
  simp only [
    kernel_streamCollide.xi_53, FluctuatingMRTLatticeModel.kernel_streamCollide.xi_53,
    kernel_streamCollide.xi_52_lane_fused s j] <;>
  ring

theorem kernel_streamCollide.xi_58_lane_fused (s : Site K) (j : Fin 4) :
    kernel_streamCollide.xi_58 s = FluctuatingMRTLatticeModel.kernel_streamCollide.xi_58 (lane s j) := by
  simp only [
    kernel_streamCollide.xi_58, FluctuatingMRTLatticeModel.kernel_streamCollide.xi_58,
    kernel_streamCollide.xi_52_lane_fused s j] <;>
  ring

theorem kernel_streamCollide.xi_63_lane_fused (s : Site K) (j : Fin 4) :
    kernel_streamCollide.xi_63 s = FluctuatingMRTLatticeModel.kernel_streamCollide.xi_63 (lane s j) := by
  simp only [
    kernel_streamCollide.xi_63, FluctuatingMRTLatticeModel.kernel_streamCollide.xi_63,
    kernel_streamCollide.xi_52_lane_fused s j] <;>
  ring

theorem kernel_streamCollide.xi_73_lane_fused (s : Site K) (j : Fin 4) :
    kernel_streamCollide.xi_73 s = FluctuatingMRTLatticeModel.kernel_streamCollide.xi_73 (lane s j) := by
  simp only [
    kernel_streamCollide.xi_73, FluctuatingMRTLatticeModel.kernel_streamCollide.xi_73,
    kernel_streamCollide.xi_52_lane_fused s j] <;>
  ring

theorem kernel_streamCollide.xi_78_lane_fused (s : Site K) (j : Fin 4) :
    kernel_streamCollide.xi_78 s = FluctuatingMRTLatticeModel.kernel_streamCollide.xi_78 (lane s j) := by
  simp only [
    kernel_streamCollide.xi_78, FluctuatingMRTLatticeModel.kernel_streamCollide.xi_78,
    kernel_streamCollide.xi_52_lane_fused s j] <;>
  ring

theorem kernel_streamCollide.xi_105_lane_fused (s : Site K) (j : Fin 4) :
    kernel_streamCollide.xi_105 s = FluctuatingMRTLatticeModel.kernel_streamCollide.xi_105 (lane s j) := by
  simp only [
    kernel_streamCollide.xi_105, FluctuatingMRTLatticeModel.kernel_streamCollide.xi_105] <;>
  ring

theorem kernel_streamCollide.xi_129_lane_fused (s : Site K) (j : Fin 4) :
    kernel_streamCollide.xi_129 s = FluctuatingMRTLatticeModel.kernel_streamCollide.xi_129 (lane s j) := by
  simp only [
    kernel_streamCollide.xi_129, FluctuatingMRTLatticeModel.kernel_streamCollide.xi_129,
    lane_omega_odd s j] <;>
  ring

theorem kernel_streamCollide.xi_144_lane_fused (s : Site K) (j : Fin 4) :
    kernel_streamCollide.xi_144 s = FluctuatingMRTLatticeModel.kernel_streamCollide.xi_144 (lane s j) := by
  simp only [
    kernel_streamCollide.xi_144, FluctuatingMRTLatticeModel.kernel_streamCollide.xi_144,
    lane_omega_odd s j] <;>
  ring

theorem kernel_streamCollide.xi_207_lane_fused (s : Site K) (j : Fin 4) :
    kernel_streamCollide.xi_207 s = FluctuatingMRTLatticeModel.kernel_streamCollide.xi_207 (lane s j) := by
  simp only [
    kernel_streamCollide.xi_207, FluctuatingMRTLatticeModel.kernel_streamCollide.xi_207,
    lane_omega_shear s j] <;>
  ring

theorem kernel_streamCollide.xi_222_lane_fused (s : Site K) (j : Fin 4) :
    kernel_streamCollide.xi_222 s = FluctuatingMRTLatticeModel.kernel_streamCollide.xi_222 (lane s j) := by
  simp only [
    kernel_streamCollide.xi_222, FluctuatingMRTLatticeModel.kernel_streamCollide.xi_222,
    lane_omega_odd s j] <;>
  ring

theorem kernel_streamCollide.xi_224_lane_fused (s : Site K) (j : Fin 4) :
    kernel_streamCollide.xi_224 s = FluctuatingMRTLatticeModel.kernel_streamCollide.xi_224 (lane s j) := by
  simp only [
    kernel_streamCollide.xi_224, FluctuatingMRTLatticeModel.kernel_streamCollide.xi_224,
    lane_omega_odd s j] <;>
  ring

theorem kernel_streamCollide.rr_0_lane_fused (s : Site K) (j : Fin 4) :
    kernel_streamCollide.rr_0 s = FluctuatingMRTLatticeModel.kernel_streamCollide.rr_0 (lane s j) := by
  simp only [
    kernel_streamCollide.rr_0, FluctuatingMRTLatticeModel.kernel_streamCollide.rr_0] <;>
  ring

theorem kernel_streamCollide.xi_133_lane_fused (s : Site K) (j : Fin 4) :
    kernel_streamCollide.xi_133 s = FluctuatingMRTLatticeModel.kernel_streamCollide.xi_133 (lane s j) := by
  simp only [
    kernel_streamCollide.xi_133, FluctuatingMRTLatticeModel.kernel_streamCollide.xi_133,
    kernel_streamCollide.rr_0_lane_fused s j] <;>
  ring

theorem kernel_streamCollide.xi_197_lane_fused (s : Site K) (j : Fin 4) :
    kernel_streamCollide.xi_197 s = FluctuatingMRTLatticeModel.kernel_streamCollide.xi_197 (lane s j) := by
  simp only [
    kernel_streamCollide.xi_197, FluctuatingMRTLatticeModel.kernel_streamCollide.xi_197,
    kernel_streamCollide.rr_0_lane_fused s j] <;>
  ring

theorem kernel_streamCollide.random_7_lane_fused (s : Site K) (j : Fin 4) :
    ((kernel_streamCollide.random_7 s).1 j, (kernel_streamCollide.random_7 s).2 j) = FluctuatingMRTLatticeModel.kernel_streamCollide.random_7 (lane s j) := by
  simp only [
    kernel_streamCollide.random_7, FluctuatingMRTLatticeModel.kernel_streamCollide.random_7,
    lane_philox_double2 s j, lane_block_offset_0 s j, lane_block_offset_1 s j, lane_block_offset_2
    s j, lane_seed s j, lane_time_step s j, lane_ctr_0 s j, lane_ctr_1 s j, lane_ctr_2 s j,
    philox_double2_m256, lane_counter, Prod.mk.eta]

theorem kernel_streamCollide.random_7_0_lane_fused (s : Site K) (j : Fin 4) :
    kernel_streamCollide.random_7_0 s j = FluctuatingMRTLatticeModel.kernel_streamCollide.random_7_0 (lane s j) := by
  rw [kernel_streamCollide.random_7_0, FluctuatingMRTLatticeModel.kernel_streamCollide.random_7_0, ← kernel_streamCollide.random_7_lane_fused s j]

theorem kernel_streamCollide.random_7_1_lane_fused (s : Site K) (j : Fin 4) :
    kernel_streamCollide.random_7_1 s j = FluctuatingMRTLatticeModel.kernel_streamCollide.random_7_1 (lane s j) := by
  rw [kernel_streamCollide.random_7_1, FluctuatingMRTLatticeModel.kernel_streamCollide.random_7_1, ← kernel_streamCollide.random_7_lane_fused s j]

theorem kernel_streamCollide.random_6_lane_fused (s : Site K) (j : Fin 4) :
    ((kernel_streamCollide.random_6 s).1 j, (kernel_streamCollide.random_6 s).2 j) = FluctuatingMRTLatticeModel.kernel_streamCollide.random_6 (lane s j) := by
  simp only [
    kernel_streamCollide.random_6, FluctuatingMRTLatticeModel.kernel_streamCollide.random_6,
    lane_philox_double2 s j, lane_block_offset_0 s j, lane_block_offset_1 s j, lane_block_offset_2
    s j, lane_seed s j, lane_time_step s j, lane_ctr_0 s j, lane_ctr_1 s j, lane_ctr_2 s j,
    philox_double2_m256, lane_counter, Prod.mk.eta]

theorem kernel_streamCollide.random_6_0_lane_fused (s : Site K) (j : Fin 4) :
    kernel_streamCollide.random_6_0 s j = FluctuatingMRTLatticeModel.kernel_streamCollide.random_6_0 (lane s j) := by
  rw [kernel_streamCollide.random_6_0, FluctuatingMRTLatticeModel.kernel_streamCollide.random_6_0, ← kernel_streamCollide.random_6_lane_fused s j]

theorem kernel_streamCollide.random_6_1_lane_fused (s : Site K) (j : Fin 4) :
    kernel_streamCollide.random_6_1 s j = FluctuatingMRTLatticeModel.kernel_streamCollide.random_6_1 (lane s j) := by
  rw [kernel_streamCollide.random_6_1, FluctuatingMRTLatticeModel.kernel_streamCollide.random_6_1, ← kernel_streamCollide.random_6_lane_fused s j]

theorem kernel_streamCollide.random_5_lane_fused (s : Site K) (j : Fin 4) :
    ((kernel_streamCollide.random_5 s).1 j, (kernel_streamCollide.random_5 s).2 j) = FluctuatingMRTLatticeModel.kernel_streamCollide.random_5 (lane s j) := by
  simp only [
    kernel_streamCollide.random_5, FluctuatingMRTLatticeModel.kernel_streamCollide.random_5,
    lane_philox_double2 s j, lane_block_offset_0 s j, lane_block_offset_1 s j, lane_block_offset_2
    s j, lane_seed s j, lane_time_step s j, lane_ctr_0 s j, lane_ctr_1 s j, lane_ctr_2 s j,
    philox_double2_m256, lane_counter, Prod.mk.eta]

theorem kernel_streamCollide.random_5_0_lane_fused (s : Site K) (j : Fin 4) :
    kernel_streamCollide.random_5_0 s j = FluctuatingMRTLatticeModel.kernel_streamCollide.random_5_0 (lane s j) := by
  rw [kernel_streamCollide.random_5_0, FluctuatingMRTLatticeModel.kernel_streamCollide.random_5_0, ← kernel_streamCollide.random_5_lane_fused s j]

theorem kernel_streamCollide.random_5_1_lane_fused (s : Site K) (j : Fin 4) :
    kernel_streamCollide.random_5_1 s j = FluctuatingMRTLatticeModel.kernel_streamCollide.random_5_1 (lane s j) := by
  rw [kernel_streamCollide.random_5_1, FluctuatingMRTLatticeModel.kernel_streamCollide.random_5_1, ← kernel_streamCollide.random_5_lane_fused s j]

theorem kernel_streamCollide.random_4_lane_fused (s : Site K) (j : Fin 4) :
    ((kernel_streamCollide.random_4 s).1 j, (kernel_streamCollide.random_4 s).2 j) = FluctuatingMRTLatticeModel.kernel_streamCollide.random_4 (lane s j) := by
  simp only [
    kernel_streamCollide.random_4, FluctuatingMRTLatticeModel.kernel_streamCollide.random_4,
    lane_philox_double2 s j, lane_block_offset_0 s j, lane_block_offset_1 s j, lane_block_offset_2
    s j, lane_seed s j, lane_time_step s j, lane_ctr_0 s j, lane_ctr_1 s j, lane_ctr_2 s j,
    philox_double2_m256, lane_counter, Prod.mk.eta]

theorem kernel_streamCollide.random_4_0_lane_fused (s : Site K) (j : Fin 4) :
    kernel_streamCollide.random_4_0 s j = FluctuatingMRTLatticeModel.kernel_streamCollide.random_4_0 (lane s j) := by
  rw [kernel_streamCollide.random_4_0, FluctuatingMRTLatticeModel.kernel_streamCollide.random_4_0, ← kernel_streamCollide.random_4_lane_fused s j]

theorem kernel_streamCollide.random_4_1_lane_fused (s : Site K) (j : Fin 4) :
    kernel_streamCollide.random_4_1 s j = FluctuatingMRTLatticeModel.kernel_streamCollide.random_4_1 (lane s j) := by
  rw [kernel_streamCollide.random_4_1, FluctuatingMRTLatticeModel.kernel_streamCollide.random_4_1, ← kernel_streamCollide.random_4_lane_fused s j]

theorem kernel_streamCollide.random_3_lane_fused (s : Site K) (j : Fin 4) :
    ((kernel_streamCollide.random_3 s).1 j, (kernel_streamCollide.random_3 s).2 j) = FluctuatingMRTLatticeModel.kernel_streamCollide.random_3 (lane s j) := by
  simp only [
    kernel_streamCollide.random_3, FluctuatingMRTLatticeModel.kernel_streamCollide.random_3,
    lane_philox_double2 s j, lane_block_offset_0 s j, lane_block_offset_1 s j, lane_block_offset_2
    s j, lane_seed s j, lane_time_step s j, lane_ctr_0 s j, lane_ctr_1 s j, lane_ctr_2 s j,
    philox_double2_m256, lane_counter, Prod.mk.eta]

theorem kernel_streamCollide.random_3_0_lane_fused (s : Site K) (j : Fin 4) :
    kernel_streamCollide.random_3_0 s j = FluctuatingMRTLatticeModel.kernel_streamCollide.random_3_0 (lane s j) := by
  rw [kernel_streamCollide.random_3_0, FluctuatingMRTLatticeModel.kernel_streamCollide.random_3_0, ← kernel_streamCollide.random_3_lane_fused s j]

theorem kernel_streamCollide.random_3_1_lane_fused (s : Site K) (j : Fin 4) :
    kernel_streamCollide.random_3_1 s j = FluctuatingMRTLatticeModel.kernel_streamCollide.random_3_1 (lane s j) := by
  rw [kernel_streamCollide.random_3_1, FluctuatingMRTLatticeModel.kernel_streamCollide.random_3_1, ← kernel_streamCollide.random_3_lane_fused s j]

theorem kernel_streamCollide.random_2_lane_fused (s : Site K) (j : Fin 4) :
    ((kernel_streamCollide.random_2 s).1 j, (kernel_streamCollide.random_2 s).2 j) = FluctuatingMRTLatticeModel.kernel_streamCollide.random_2 (lane s j) := by
  simp only [
    kernel_streamCollide.random_2, FluctuatingMRTLatticeModel.kernel_streamCollide.random_2,
    lane_philox_double2 s j, lane_block_offset_0 s j, lane_block_offset_1 s j, lane_block_offset_2
    s j, lane_seed s j, lane_time_step s j, lane_ctr_0 s j, lane_ctr_1 s j, lane_ctr_2 s j,
    philox_double2_m256, lane_counter, Prod.mk.eta]

theorem kernel_streamCollide.random_2_0_lane_fused (s : Site K) (j : Fin 4) :
    kernel_streamCollide.random_2_0 s j = FluctuatingMRTLatticeModel.kernel_streamCollide.random_2_0 (lane s j) := by
  rw [kernel_streamCollide.random_2_0, FluctuatingMRTLatticeModel.kernel_streamCollide.random_2_0, ← kernel_streamCollide.random_2_lane_fused s j]

theorem kernel_streamCollide.random_2_1_lane_fused (s : Site K) (j : Fin 4) :
    kernel_streamCollide.random_2_1 s j = FluctuatingMRTLatticeModel.kernel_streamCollide.random_2_1 (lane s j) := by
  rw [kernel_streamCollide.random_2_1, FluctuatingMRTLatticeModel.kernel_streamCollide.random_2_1, ← kernel_streamCollide.random_2_lane_fused s j]

theorem kernel_streamCollide.random_1_lane_fused (s : Site K) (j : Fin 4) :
    ((kernel_streamCollide.random_1 s).1 j, (kernel_streamCollide.random_1 s).2 j) = FluctuatingMRTLatticeModel.kernel_streamCollide.random_1 (lane s j) := by
  simp only [
    kernel_streamCollide.random_1, FluctuatingMRTLatticeModel.kernel_streamCollide.random_1,
    lane_philox_double2 s j, lane_block_offset_0 s j, lane_block_offset_1 s j, lane_block_offset_2
    s j, lane_seed s j, lane_time_step s j, lane_ctr_0 s j, lane_ctr_1 s j, lane_ctr_2 s j,
    philox_double2_m256, lane_counter, Prod.mk.eta]

theorem kernel_streamCollide.random_1_0_lane_fused (s : Site K) (j : Fin 4) :
    kernel_streamCollide.random_1_0 s j = FluctuatingMRTLatticeModel.kernel_streamCollide.random_1_0 (lane s j) := by
  rw [kernel_streamCollide.random_1_0, FluctuatingMRTLatticeModel.kernel_streamCollide.random_1_0, ← kernel_streamCollide.random_1_lane_fused s j]

theorem kernel_streamCollide.random_1_1_lane_fused (s : Site K) (j : Fin 4) :
    kernel_streamCollide.random_1_1 s j = FluctuatingMRTLatticeModel.kernel_streamCollide.random_1_1 (lane s j) := by
  rw [kernel_streamCollide.random_1_1, FluctuatingMRTLatticeModel.kernel_streamCollide.random_1_1, ← kernel_streamCollide.random_1_lane_fused s j]

theorem kernel_streamCollide.random_0_lane_fused (s : Site K) (j : Fin 4) :
    ((kernel_streamCollide.random_0 s).1 j, (kernel_streamCollide.random_0 s).2 j) = FluctuatingMRTLatticeModel.kernel_streamCollide.random_0 (lane s j) := by
  simp only [
    kernel_streamCollide.random_0, FluctuatingMRTLatticeModel.kernel_streamCollide.random_0,
    lane_philox_double2 s j, lane_block_offset_0 s j, lane_block_offset_1 s j, lane_block_offset_2
    s j, lane_seed s j, lane_time_step s j, lane_ctr_0 s j, lane_ctr_1 s j, lane_ctr_2 s j,
    philox_double2_m256, lane_counter, Prod.mk.eta]

theorem kernel_streamCollide.random_0_0_lane_fused (s : Site K) (j : Fin 4) :
    kernel_streamCollide.random_0_0 s j = FluctuatingMRTLatticeModel.kernel_streamCollide.random_0_0 (lane s j) := by
  rw [kernel_streamCollide.random_0_0, FluctuatingMRTLatticeModel.kernel_streamCollide.random_0_0, ← kernel_streamCollide.random_0_lane_fused s j]

theorem kernel_streamCollide.random_0_1_lane_fused (s : Site K) (j : Fin 4) :
    kernel_streamCollide.random_0_1 s j = FluctuatingMRTLatticeModel.kernel_streamCollide.random_0_1 (lane s j) := by
  rw [kernel_streamCollide.random_0_1, FluctuatingMRTLatticeModel.kernel_streamCollide.random_0_1, ← kernel_streamCollide.random_0_lane_fused s j]

theorem kernel_streamCollide.xi_0_lane_fused (s : Site K) (j : Fin 4) :
    kernel_streamCollide.xi_0 s j = FluctuatingMRTLatticeModel.kernel_streamCollide.xi_0 (lane s j) := by
  simp only [
    kernel_streamCollide.xi_0, FluctuatingMRTLatticeModel.kernel_streamCollide.xi_0,
    lane__data_pdfs s j, lane_ctr_0 s j, lane_ctr_1 s j, lane_ctr_2 s j,
    mm256_add_pd_apply, mm256_mul_pd_apply, mm256_div_pd_apply, mm256_sqrt_pd_apply,
    mm256_set_pd_apply, mm256_load_pd_apply, mm256_loadu_pd_add, mm256_loadu_pd_sub] <;>
  ring

theorem kernel_streamCollide.xi_1_lane_fused (s : Site K) (j : Fin 4) :
    kernel_streamCollide.xi_1 s j = FluctuatingMRTLatticeModel.kernel_streamCollide.xi_1 (lane s j) := by
  simp only [
    kernel_streamCollide.xi_1, FluctuatingMRTLatticeModel.kernel_streamCollide.xi_1,
    lane__data_pdfs s j, lane_ctr_0 s j, lane_ctr_1 s j, lane_ctr_2 s j,
    mm256_add_pd_apply, mm256_mul_pd_apply, mm256_div_pd_apply, mm256_sqrt_pd_apply,
    mm256_set_pd_apply, mm256_load_pd_apply, mm256_loadu_pd_add, mm256_loadu_pd_sub] <;>
  ring

theorem kernel_streamCollide.xi_2_lane_fused (s : Site K) (j : Fin 4) :
    kernel_streamCollide.xi_2 s j = FluctuatingMRTLatticeModel.kernel_streamCollide.xi_2 (lane s j) := by
  simp only [
    kernel_streamCollide.xi_2, FluctuatingMRTLatticeModel.kernel_streamCollide.xi_2,
    kernel_streamCollide.xi_0_lane_fused s j, kernel_streamCollide.xi_1_lane_fused s j, lane__data_pdfs s j,
    lane_ctr_0 s j, lane_ctr_1 s j, lane_ctr_2 s j,
    mm256_add_pd_apply, mm256_mul_pd_apply, mm256_div_pd_apply, mm256_sqrt_pd_apply,
    mm256_set_pd_apply, mm256_load_pd_apply, mm256_loadu_pd_add, mm256_loadu_pd_sub] <;>
  ring

theorem kernel_streamCollide.xi_3_lane_fused (s : Site K) (j : Fin 4) :
    kernel_streamCollide.xi_3 s j = FluctuatingMRTLatticeModel.kernel_streamCollide.xi_3 (lane s j) := by
  simp only [
    kernel_streamCollide.xi_3, FluctuatingMRTLatticeModel.kernel_streamCollide.xi_3,
    lane__data_pdfs s j, lane_ctr_0 s j, lane_ctr_1 s j, lane_ctr_2 s j,
    mm256_add_pd_apply, mm256_mul_pd_apply, mm256_div_pd_apply, mm256_sqrt_pd_apply,
    mm256_set_pd_apply, mm256_load_pd_apply, mm256_loadu_pd_add, mm256_loadu_pd_sub] <;>
  ring

theorem kernel_streamCollide.xi_4_lane_fused (s : Site K) (j : Fin 4) :
    kernel_streamCollide.xi_4 s j = FluctuatingMRTLatticeModel.kernel_streamCollide.xi_4 (lane s j) := by
  simp only [
    kernel_streamCollide.xi_4, FluctuatingMRTLatticeModel.kernel_streamCollide.xi_4,
    kernel_streamCollide.xi_3_lane_fused s j, lane__data_pdfs s j, lane_ctr_0 s j, lane_ctr_1 s j,
    lane_ctr_2 s j,
    mm256_add_pd_apply, mm256_mul_pd_apply, mm256_div_pd_apply, mm256_sqrt_pd_apply,
    mm256_set_pd_apply, mm256_load_pd_apply, mm256_loadu_pd_add, mm256_loadu_pd_sub] <;>
  ring

theorem kernel_streamCollide.xi_5_lane_fused (s : Site K) (j : Fin 4) :
    kernel_streamCollide.xi_5 s j = FluctuatingMRTLatticeModel.kernel_streamCollide.xi_5 (lane s j) := by
  simp only [
    kernel_streamCollide.xi_5, FluctuatingMRTLatticeModel.kernel_streamCollide.xi_5,
    kernel_streamCollide.xi_4_lane_fused s j, lane__data_pdfs s j, lane_ctr_0 s j, lane_ctr_1 s j,
    lane_ctr_2 s j,
    mm256_add_pd_apply, mm256_mul_pd_apply, mm256_div_pd_apply, mm256_sqrt_pd_apply,
    mm256_set_pd_apply, mm256_load_pd_apply, mm256_loadu_pd_add, mm256_loadu_pd_sub] <;>
  ring

theorem kernel_streamCollide.xi_6_lane_fused (s : Site K) (j : Fin 4) :
    kernel_streamCollide.xi_6 s j = FluctuatingMRTLatticeModel.kernel_streamCollide.xi_6 (lane s j) := by
  simp only [
    kernel_streamCollide.xi_6, FluctuatingMRTLatticeModel.kernel_streamCollide.xi_6,
    lane__data_pdfs s j, lane_ctr_0 s j, lane_ctr_1 s j, lane_ctr_2 s j,
    mm256_add_pd_apply, mm256_mul_pd_apply, mm256_div_pd_apply, mm256_sqrt_pd_apply,
    mm256_set_pd_apply, mm256_load_pd_apply, mm256_loadu_pd_add, mm256_loadu_pd_sub] <;>
  ring

theorem kernel_streamCollide.xi_7_lane_fused (s : Site K) (j : Fin 4) :
    kernel_streamCollide.xi_7 s j = FluctuatingMRTLatticeModel.kernel_streamCollide.xi_7 (lane s j) := by
  simp only [
    kernel_streamCollide.xi_7, FluctuatingMRTLatticeModel.kernel_streamCollide.xi_7,
    kernel_streamCollide.xi_6_lane_fused s j, lane__data_pdfs s j, lane_ctr_0 s j, lane_ctr_1 s j,
    lane_ctr_2 s j,
    mm256_add_pd_apply, mm256_mul_pd_apply, mm256_div_pd_apply, mm256_sqrt_pd_apply,
    mm256_set_pd_apply, mm256_load_pd_apply, mm256_loadu_pd_add, mm256_loadu_pd_sub] <;>
  ring

theorem kernel_streamCollide.xi_8_lane_fused (s : Site K) (j : Fin 4) :
    kernel_streamCollide.xi_8 s j = FluctuatingMRTLatticeModel.kernel_streamCollide.xi_8 (lane s j) := by
  simp only [
    kernel_streamCollide.xi_8, FluctuatingMRTLatticeModel.kernel_streamCollide.xi_8,
    lane__data_pdfs s j, lane_ctr_0 s j, lane_ctr_1 s j, lane_ctr_2 s j,
    mm256_add_pd_apply, mm256_mul_pd_apply, mm256_div_pd_apply, mm256_sqrt_pd_apply,
    mm256_set_pd_apply, mm256_load_pd_apply, mm256_loadu_pd_add, mm256_loadu_pd_sub] <;>
  ring

theorem kernel_streamCollide.xi_9_lane_fused (s : Site K) (j : Fin 4) :
    kernel_streamCollide.xi_9 s j = FluctuatingMRTLatticeModel.kernel_streamCollide.xi_9 (lane s j) := by
  simp only [
    kernel_streamCollide.xi_9, FluctuatingMRTLatticeModel.kernel_streamCollide.xi_9,
    lane__data_pdfs s j, lane_ctr_0 s j, lane_ctr_1 s j, lane_ctr_2 s j,
    mm256_add_pd_apply, mm256_mul_pd_apply, mm256_div_pd_apply, mm256_sqrt_pd_apply,
    mm256_set_pd_apply, mm256_load_pd_apply, mm256_loadu_pd_add, mm256_loadu_pd_sub] <;>
  ring

theorem kernel_streamCollide.xi_10_lane_fused (s : Site K) (j : Fin 4) :
    kernel_streamCollide.xi_10 s j = FluctuatingMRTLatticeModel.kernel_streamCollide.xi_10 (lane s j) := by
  simp only [
    kernel_streamCollide.xi_10, FluctuatingMRTLatticeModel.kernel_streamCollide.xi_10,
    lane__data_pdfs s j, lane_ctr_0 s j, lane_ctr_1 s j, lane_ctr_2 s j,
    mm256_add_pd_apply, mm256_mul_pd_apply, mm256_div_pd_apply, mm256_sqrt_pd_apply,
    mm256_set_pd_apply, mm256_load_pd_apply, mm256_loadu_pd_add, mm256_loadu_pd_sub] <;>
  ring

theorem kernel_streamCollide.xi_12_lane_fused (s : Site K) (j : Fin 4) :
    kernel_streamCollide.xi_12 s j = FluctuatingMRTLatticeModel.kernel_streamCollide.xi_12 (lane s j) := by
  simp only [
    kernel_streamCollide.xi_12, FluctuatingMRTLatticeModel.kernel_streamCollide.xi_12,
    lane__data_pdfs s j, lane_ctr_0 s j, lane_ctr_1 s j, lane_ctr_2 s j,
    mm256_add_pd_apply, mm256_mul_pd_apply, mm256_div_pd_apply, mm256_sqrt_pd_apply,
    mm256_set_pd_apply, mm256_load_pd_apply, mm256_loadu_pd_add, mm256_loadu_pd_sub] <;>
  ring

theorem kernel_streamCollide.xi_13_lane_fused (s : Site K) (j : Fin 4) :
    kernel_streamCollide.xi_13 s j = FluctuatingMRTLatticeModel.kernel_streamCollide.xi_13 (lane s j) := by
  simp only [
    kernel_streamCollide.xi_13, FluctuatingMRTLatticeModel.kernel_streamCollide.xi_13,
    lane__data_pdfs s j, lane_ctr_0 s j, lane_ctr_1 s j, lane_ctr_2 s j,
    mm256_add_pd_apply, mm256_mul_pd_apply, mm256_div_pd_apply, mm256_sqrt_pd_apply,
    mm256_set_pd_apply, mm256_load_pd_apply, mm256_loadu_pd_add, mm256_loadu_pd_sub] <;>
  ring

theorem kernel_streamCollide.xi_14_lane_fused (s : Site K) (j : Fin 4) :
    kernel_streamCollide.xi_14 s j = FluctuatingMRTLatticeModel.kernel_streamCollide.xi_14 (lane s j) := by
  simp only [
    kernel_streamCollide.xi_14, FluctuatingMRTLatticeModel.kernel_streamCollide.xi_14,
    kernel_streamCollide.xi_12_lane_fused s j, kernel_streamCollide.xi_13_lane_fused s j,
    mm256_add_pd_apply, mm256_mul_pd_apply, mm256_div_pd_apply, mm256_sqrt_pd_apply,
    mm256_set_pd_apply, mm256_load_pd_apply, mm256_loadu_pd_add, mm256_loadu_pd_sub] <;>
  ring

theorem kernel_streamCollide.xi_15_lane_fused (s : Site K) (j : Fin 4) :
    kernel_streamCollide.xi_15 s j = FluctuatingMRTLatticeModel.kernel_streamCollide.xi_15 (lane s j) := by
  simp only [
    kernel_streamCollide.xi_15, FluctuatingMRTLatticeModel.kernel_streamCollide.xi_15,
    lane__data_pdfs s j, lane_ctr_0 s j, lane_ctr_1 s j, lane_ctr_2 s j,
    mm256_add_pd_apply, mm256_mul_pd_apply, mm256_div_pd_apply, mm256_sqrt_pd_apply,
    mm256_set_pd_apply, mm256_load_pd_apply, mm256_loadu_pd_add, mm256_loadu_pd_sub] <;>
  ring

theorem kernel_streamCollide.xi_16_lane_fused (s : Site K) (j : Fin 4) :
    kernel_streamCollide.xi_16 s j = FluctuatingMRTLatticeModel.kernel_streamCollide.xi_16 (lane s j) := by
  simp only [
    kernel_streamCollide.xi_16, FluctuatingMRTLatticeModel.kernel_streamCollide.xi_16,
    lane__data_pdfs s j, lane_ctr_0 s j, lane_ctr_1 s j, lane_ctr_2 s j,
    mm256_add_pd_apply, mm256_mul_pd_apply, mm256_div_pd_apply, mm256_sqrt_pd_apply,
    mm256_set_pd_apply, mm256_load_pd_apply, mm256_loadu_pd_add, mm256_loadu_pd_sub] <;>
  ring

theorem kernel_streamCollide.xi_17_lane_fused (s : Site K) (j : Fin 4) :
    kernel_streamCollide.xi_17 s j = FluctuatingMRTLatticeModel.kernel_streamCollide.xi_17 (lane s j) := by
  simp only [
    kernel_streamCollide.xi_17, FluctuatingMRTLatticeModel.kernel_streamCollide.xi_17,
    lane__data_pdfs s j, lane_ctr_0 s j, lane_ctr_1 s j, lane_ctr_2 s j,
    mm256_add_pd_apply, mm256_mul_pd_apply, mm256_div_pd_apply, mm256_sqrt_pd_apply,
    mm256_set_pd_apply, mm256_load_pd_apply, mm256_loadu_pd_add, mm256_loadu_pd_sub] <;>
  ring

theorem kernel_streamCollide.xi_18_lane_fused (s : Site K) (j : Fin 4) :
    kernel_streamCollide.xi_18 s j = FluctuatingMRTLatticeModel.kernel_streamCollide.xi_18 (lane s j) := by
  simp only [
    kernel_streamCollide.xi_18, FluctuatingMRTLatticeModel.kernel_streamCollide.xi_18,
    kernel_streamCollide.xi_16_lane_fused s j, kernel_streamCollide.xi_17_lane_fused s j,
    mm256_add_pd_apply, mm256_mul_pd_apply, mm256_div_pd_apply, mm256_sqrt_pd_apply,
    mm256_set_pd_apply, mm256_load_pd_apply, mm256_loadu_pd_add, mm256_loadu_pd_sub] <;>
  ring

theorem kernel_streamCollide.xi_19_lane_fused (s : Site K) (j : Fin 4) :
    kernel_streamCollide.xi_19 s j = FluctuatingMRTLatticeModel.kernel_streamCollide.xi_19 (lane s j) := by
  simp only [
    kernel_streamCollide.xi_19, FluctuatingMRTLatticeModel.kernel_streamCollide.xi_19,
    kernel_streamCollide.xi_15_lane_fused s j, kernel_streamCollide.xi_18_lane_fused s j,
    mm256_add_pd_apply, mm256_mul_pd_apply, mm256_div_pd_apply, mm256_sqrt_pd_apply,
    mm256_set_pd_apply, mm256_load_pd_apply, mm256_loadu_pd_add, mm256_loadu_pd_sub] <;>
  ring

theorem kernel_streamCollide.xi_20_lane_fused (s : Site K) (j : Fin 4) :
    kernel_streamCollide.xi_20 s j = FluctuatingMRTLatticeModel.kernel_streamCollide.xi_20 (lane s j) := by
  simp only [
    kernel_streamCollide.xi_20, FluctuatingMRTLatticeModel.kernel_streamCollide.xi_20,
    lane__data_pdfs s j, lane_ctr_0 s j, lane_ctr_1 s j, lane_ctr_2 s j,
    mm256_add_pd_apply, mm256_mul_pd_apply, mm256_div_pd_apply, mm256_sqrt_pd_apply,
    mm256_set_pd_apply, mm256_load_pd_apply, mm256_loadu_pd_add, mm256_loadu_pd_sub] <;>
  ring

theorem kernel_streamCollide.xi_21_lane_fused (s : Site K) (j : Fin 4) :
    kernel_streamCollide.xi_21 s j = FluctuatingMRTLatticeModel.kernel_streamCollide.xi_21 (lane s j) := by
  simp only [
    kernel_streamCollide.xi_21, FluctuatingMRTLatticeModel.kernel_streamCollide.xi_21,
    kernel_streamCollide.xi_20_lane_fused s j, lane__data_pdfs s j, lane_ctr_0 s j, lane_ctr_1 s j,
    lane_ctr_2 s j,
    mm256_add_pd_apply, mm256_mul_pd_apply, mm256_div_pd_apply, mm256_sqrt_pd_apply,
    mm256_set_pd_apply, mm256_load_pd_apply, mm256_loadu_pd_add, mm256_loadu_pd_sub] <;>
  ring

theorem kernel_streamCollide.xi_22_lane_fused (s : Site K) (j : Fin 4) :
    kernel_streamCollide.xi_22 s j = FluctuatingMRTLatticeModel.kernel_streamCollide.xi_22 (lane s j) := by
  simp only [
    kernel_streamCollide.xi_22, FluctuatingMRTLatticeModel.kernel_streamCollide.xi_22,
    lane__data_pdfs s j, lane_ctr_0 s j, lane_ctr_1 s j, lane_ctr_2 s j,
    mm256_add_pd_apply, mm256_mul_pd_apply, mm256_div_pd_apply, mm256_sqrt_pd_apply,
    mm256_set_pd_apply, mm256_load_pd_apply, mm256_loadu_pd_add, mm256_loadu_pd_sub] <;>
  ring

theorem kernel_streamCollide.xi_23_lane_fused (s : Site K) (j : Fin 4) :
    kernel_streamCollide.xi_23 s j = FluctuatingMRTLatticeModel.kernel_streamCollide.xi_23 (lane s j) := by
  simp only [
    kernel_streamCollide.xi_23, FluctuatingMRTLatticeModel.kernel_streamCollide.xi_23,
    lane__data_pdfs s j, lane_ctr_0 s j, lane_ctr_1 s j, lane_ctr_2 s j,
    mm256_add_pd_apply, mm256_mul_pd_apply, mm256_div_pd_apply, mm256_sqrt_pd_apply,
    mm256_set_pd_apply, mm256_load_pd_apply, mm256_loadu_pd_add, mm256_loadu_pd_sub] <;>
  ring

theorem kernel_streamCollide.xi_24_lane_fused (s : Site K) (j : Fin 4) :
    kernel_streamCollide.xi_24 s j = FluctuatingMRTLatticeModel.kernel_streamCollide.xi_24 (lane s j) := by
  simp only [
    kernel_streamCollide.xi_24, FluctuatingMRTLatticeModel.kernel_streamCollide.xi_24,
    lane__data_pdfs s j, lane_ctr_0 s j, lane_ctr_1 s j, lane_ctr_2 s j,
    mm256_add_pd_apply, mm256_mul_pd_apply, mm256_div_pd_apply, mm256_sqrt_pd_apply,
    mm256_set_pd_apply, mm256_load_pd_apply, mm256_loadu_pd_add, mm256_loadu_pd_sub] <;>
  ring

theorem kernel_streamCollide.xi_25_lane_fused (s : Site K) (j : Fin 4) :
    kernel_streamCollide.xi_25 s j = FluctuatingMRTLatticeModel.kernel_streamCollide.xi_25 (lane s j) := by
  simp only [
    kernel_streamCollide.xi_25, FluctuatingMRTLatticeModel.kernel_streamCollide.xi_25,
    kernel_streamCollide.xi_22_lane_fused s j, kernel_streamCollide.xi_23_lane_fused s j,
    kernel_streamCollide.xi_24_lane_fused s j,
    mm256_add_pd_apply, mm256_mul_pd_apply, mm256_div_pd_apply, mm256_sqrt_pd_apply,
    mm256_set_pd_apply, mm256_load_pd_apply, mm256_loadu_pd_add, mm256_loadu_pd_sub] <;>
  ring

theorem kernel_streamCollide.xi_26_lane_fused (s : Site K) (j : Fin 4) :
    kernel_streamCollide.xi_26 s j = FluctuatingMRTLatticeModel.kernel_streamCollide.xi_26 (lane s j) := by
  simp only [
    kernel_streamCollide.xi_26, FluctuatingMRTLatticeModel.kernel_streamCollide.xi_26,
    lane__data_pdfs s j, lane_ctr_0 s j, lane_ctr_1 s j, lane_ctr_2 s j,
    mm256_add_pd_apply, mm256_mul_pd_apply, mm256_div_pd_apply, mm256_sqrt_pd_apply,
    mm256_set_pd_apply, mm256_load_pd_apply, mm256_loadu_pd_add, mm256_loadu_pd_sub] <;>
  ring

theorem kernel_streamCollide.xi_27_lane_fused (s : Site K) (j : Fin 4) :
    kernel_streamCollide.xi_27 s j = FluctuatingMRTLatticeModel.kernel_streamCollide.xi_27 (lane s j) := by
  simp only [
    kernel_streamCollide.xi_27, FluctuatingMRTLatticeModel.kernel_streamCollide.xi_27,
    kernel_streamCollide.xi_12_lane_fused s j, kernel_streamCollide.xi_26_lane_fused s j,
    mm256_add_pd_apply, mm256_mul_pd_apply, mm256_div_pd_apply, mm256_sqrt_pd_apply,
    mm256_set_pd_apply, mm256_load_pd_apply, mm256_loadu_pd_add, mm256_loadu_pd_sub] <;>
  ring

theorem kernel_streamCollide.xi_28_lane_fused (s : Site K) (j : Fin 4) :
    kernel_streamCollide.xi_28 s j = FluctuatingMRTLatticeModel.kernel_streamCollide.xi_28 (lane s j) := by
  simp only [
    kernel_streamCollide.xi_28, FluctuatingMRTLatticeModel.kernel_streamCollide.xi_28,
    lane__data_pdfs s j, lane_ctr_0 s j, lane_ctr_1 s j, lane_ctr_2 s j,
    mm256_add_pd_apply, mm256_mul_pd_apply, mm256_div_pd_apply, mm256_sqrt_pd_apply,
    mm256_set_pd_apply, mm256_load_pd_apply, mm256_loadu_pd_add, mm256_loadu_pd_sub] <;>
  ring

theorem kernel_streamCollide.xi_29_lane_fused (s : Site K) (j : Fin 4) :
    kernel_streamCollide.xi_29 s j = FluctuatingMRTLatticeModel.kernel_streamCollide.xi_29 (lane s j) := by
  simp only [
    kernel_streamCollide.xi_29, FluctuatingMRTLatticeModel.kernel_streamCollide.xi_29,
    lane__data_pdfs s j, lane_ctr_0 s j, lane_ctr_1 s j, lane_ctr_2 s j,
    mm256_add_pd_apply, mm256_mul_pd_apply, mm256_div_pd_apply, mm256_sqrt_pd_apply,
    mm256_set_pd_apply, mm256_load_pd_apply, mm256_loadu_pd_add, mm256_loadu_pd_sub] <;>
  ring

theorem kernel_streamCollide.xi_30_lane_fused (s : Site K) (j : Fin 4) :
    kernel_streamCollide.xi_30 s j = FluctuatingMRTLatticeModel.kernel_streamCollide.xi_30 (lane s j) := by
  simp only [
    kernel_streamCollide.xi_30, FluctuatingMRTLatticeModel.kernel_streamCollide.xi_30,
    kernel_streamCollide.xi_24_lane_fused s j, kernel_streamCollide.xi_28_lane_fused s j,
    kernel_streamCollide.xi_29_lane_fused s j, lane__data_pdfs s j, lane_ctr_0 s j, lane_ctr_1 s j,
    lane_ctr_2 s j,
    mm256_add_pd_apply, mm256_mul_pd_apply, mm256_div_pd_apply, mm256_sqrt_pd_apply,
    mm256_set_pd_apply, mm256_load_pd_apply, mm256_loadu_pd_add, mm256_loadu_pd_sub] <;>
  ring

theorem kernel_streamCollide.xi_31_lane_fused (s : Site K) (j : Fin 4) :
    kernel_streamCollide.xi_31 s j = FluctuatingMRTLatticeModel.kernel_streamCollide.xi_31 (lane s j) := by
  simp only [
    kernel_streamCollide.xi_31, FluctuatingMRTLatticeModel.kernel_streamCollide.xi_31,
    lane__data_pdfs s j, lane_ctr_0 s j, lane_ctr_1 s j, lane_ctr_2 s j,
    mm256_add_pd_apply, mm256_mul_pd_apply, mm256_div_pd_apply, mm256_sqrt_pd_apply,
    mm256_set_pd_apply, mm256_load_pd_apply, mm256_loadu_pd_add, mm256_loadu_pd_sub] <;>
  ring

theorem kernel_streamCollide.xi_32_lane_fused (s : Site K) (j : Fin 4) :
    kernel_streamCollide.xi_32 s j = FluctuatingMRTLatticeModel.kernel_streamCollide.xi_32 (lane s j) := by
  simp only [
    kernel_streamCollide.xi_32, FluctuatingMRTLatticeModel.kernel_streamCollide.xi_32,
    kernel_streamCollide.xi_8_lane_fused s j, kernel_streamCollide.xi_31_lane_fused s j, lane__data_pdfs s j,
    lane_ctr_0 s j, lane_ctr_1 s j, lane_ctr_2 s j,
    mm256_add_pd_apply, mm256_mul_pd_apply, mm256_div_pd_apply, mm256_sqrt_pd_apply,
    mm256_set_pd_apply, mm256_load_pd_apply, mm256_loadu_pd_add, mm256_loadu_pd_sub] <;>
  ring

theorem kernel_streamCollide.xi_33_lane_fused (s : Site K) (j : Fin 4) :
    kernel_streamCollide.xi_33 s j = FluctuatingMRTLatticeModel.kernel_streamCollide.xi_33 (lane s j) := by
  simp only [
    kernel_streamCollide.xi_33, FluctuatingMRTLatticeModel.kernel_streamCollide.xi_33,
    kernel_streamCollide.xi_16_lane_fused s j, kernel_streamCollide.xi_21_lane_fused s j, lane__data_pdfs s j,
    lane_ctr_0 s j, lane_ctr_1 s j, lane_ctr_2 s j,
    mm256_add_pd_apply, mm256_mul_pd_apply, mm256_div_pd_apply, mm256_sqrt_pd_apply,
    mm256_set_pd_apply, mm256_load_pd_apply, mm256_loadu_pd_add, mm256_loadu_pd_sub] <;>
  ring

theorem kernel_streamCollide.xi_34_lane_fused (s : Site K) (j : Fin 4) :
    kernel_streamCollide.xi_34 s j = FluctuatingMRTLatticeModel.kernel_streamCollide.xi_34 (lane s j) := by
  simp only [
    kernel_streamCollide.xi_34, FluctuatingMRTLatticeModel.kernel_streamCollide.xi_34,
    kernel_streamCollide.xi_26_lane_fused s j, lane__data_pdfs s j, lane_ctr_0 s j, lane_ctr_1 s j,
    lane_ctr_2 s j,
    mm256_add_pd_apply, mm256_mul_pd_apply, mm256_div_pd_apply, mm256_sqrt_pd_apply,
    mm256_set_pd_apply, mm256_load_pd_apply, mm256_loadu_pd_add, mm256_loadu_pd_sub] <;>
  ring

theorem kernel_streamCollide.xi_35_lane_fused (s : Site K) (j : Fin 4) :
    kernel_streamCollide.xi_35 s j = FluctuatingMRTLatticeModel.kernel_streamCollide.xi_35 (lane s j) := by
  simp only [
    kernel_streamCollide.xi_35, FluctuatingMRTLatticeModel.kernel_streamCollide.xi_35,
    kernel_streamCollide.xi_15_lane_fused s j, lane__data_pdfs s j, lane_ctr_0 s j, lane_ctr_1 s j,
    lane_ctr_2 s j,
    mm256_add_pd_apply, mm256_mul_pd_apply, mm256_div_pd_apply, mm256_sqrt_pd_apply,
    mm256_set_pd_apply, mm256_load_pd_apply, mm256_loadu_pd_add, mm256_loadu_pd_sub] <;>
  ring

theorem kernel_streamCollide.xi_36_lane_fused (s : Site K) (j : Fin 4) :
    kernel_streamCollide.xi_36 s j = FluctuatingMRTLatticeModel.kernel_streamCollide.xi_36 (lane s j) := by
  simp only [
    kernel_streamCollide.xi_36, FluctuatingMRTLatticeModel.kernel_streamCollide.xi_36,
    kernel_streamCollide.xi_34_lane_fused s j, kernel_streamCollide.xi_35_lane_fused s j,
    mm256_add_pd_apply, mm256_mul_pd_apply, mm256_div_pd_apply, mm256_sqrt_pd_apply,
    mm256_set_pd_apply, mm256_load_pd_apply, mm256_loadu_pd_add, mm256_loadu_pd_sub] <;>
  ring

theorem kernel_streamCollide.xi_37_lane_fused (s : Site K) (j : Fin 4) :
    kernel_streamCollide.xi_37 s j = FluctuatingMRTLatticeModel.kernel_streamCollide.xi_37 (lane s j) := by
  simp only [
    kernel_streamCollide.xi_37, FluctuatingMRTLatticeModel.kernel_streamCollide.xi_37,
    kernel_streamCollide.xi_9_lane_fused s j, lane__data_pdfs s j, lane_ctr_0 s j, lane_ctr_1 s j,
    lane_ctr_2 s j,
    mm256_add_pd_apply, mm256_mul_pd_apply, mm256_div_pd_apply, mm256_sqrt_pd_apply,
    mm256_set_pd_apply, mm256_load_pd_apply, mm256_loadu_pd_add, mm256_loadu_pd_sub] <;>
  ring

theorem kernel_streamCollide.xi_38_lane_fused (s : Site K) (j : Fin 4) :
    kernel_streamCollide.xi_38 s j = FluctuatingMRTLatticeModel.kernel_streamCollide.xi_38 (lane s j) := by
  simp only [
    kernel_streamCollide.xi_38, FluctuatingMRTLatticeModel.kernel_streamCollide.xi_38,
    kernel_streamCollide.xi_28_lane_fused s j, lane__data_pdfs s j, lane_ctr_0 s j, lane_ctr_1 s j,
    lane_ctr_2 s j,
    mm256_add_pd_apply, mm256_mul_pd_apply, mm256_div_pd_apply, mm256_sqrt_pd_apply,
    mm256_set_pd_apply, mm256_load_pd_apply, mm256_loadu_pd_add, mm256_loadu_pd_sub] <;>
  ring

theorem kernel_streamCollide.xi_39_lane_fused (s : Site K) (j : Fin 4) :
    kernel_streamCollide.xi_39 s j = FluctuatingMRTLatticeModel.kernel_streamCollide.xi_39 (lane s j) := by
  simp only [
    kernel_streamCollide.xi_39, FluctuatingMRTLatticeModel.kernel_streamCollide.xi_39,
    kernel_streamCollide.xi_22_lane_fused s j, kernel_streamCollide.xi_38_lane_fused s j, lane__data_pdfs s j,
    lane_ctr_0 s j, lane_ctr_1 s j, lane_ctr_2 s j,
    mm256_add_pd_apply, mm256_mul_pd_apply, mm256_div_pd_apply, mm256_sqrt_pd_apply,
    mm256_set_pd_apply, mm256_load_pd_apply, mm256_loadu_pd_add, mm256_loadu_pd_sub] <;>
  ring

theorem kernel_streamCollide.xi_57_lane_fused (s : Site K) (j : Fin 4) :
    kernel_streamCollide.xi_57 s j = FluctuatingMRTLatticeModel.kernel_streamCollide.xi_57 (lane s j) := by
  simp only [
    kernel_streamCollide.xi_57, FluctuatingMRTLatticeModel.kernel_streamCollide.xi_57,
    lane__data_force s j, lane_ctr_0 s j, lane_ctr_1 s j, lane_ctr_2 s j,
    mm256_add_pd_apply, mm256_mul_pd_apply, mm256_div_pd_apply, mm256_sqrt_pd_apply,
    mm256_set_pd_apply, mm256_load_pd_apply, mm256_loadu_pd_add, mm256_loadu_pd_sub] <;>
  ring

theorem kernel_streamCollide.xi_65_lane_fused (s : Site K) (j : Fin 4) :
    kernel_streamCollide.xi_65 s j = FluctuatingMRTLatticeModel.kernel_streamCollide.xi_65 (lane s j) := by
  simp only [
    kernel_streamCollide.xi_65, FluctuatingMRTLatticeModel.kernel_streamCollide.xi_65,
    lane__data_force s j, lane_ctr_0 s j, lane_ctr_1 s j, lane_ctr_2 s j,
    mm256_add_pd_apply, mm256_mul_pd_apply, mm256_div_pd_apply, mm256_sqrt_pd_apply,
    mm256_set_pd_apply, mm256_load_pd_apply, mm256_loadu_pd_add, mm256_loadu_pd_sub] <;>
  ring

theorem kernel_streamCollide.xi_69_lane_fused (s : Site K) (j : Fin 4) :
    kernel_streamCollide.xi_69 s j = FluctuatingMRTLatticeModel.kernel_streamCollide.xi_69 (lane s j) := by
  simp only [
    kernel_streamCollide.xi_69, FluctuatingMRTLatticeModel.kernel_streamCollide.xi_69,
    lane__data_force s j, lane_ctr_0 s j, lane_ctr_1 s j, lane_ctr_2 s j,
    mm256_add_pd_apply, mm256_mul_pd_apply, mm256_div_pd_apply, mm256_sqrt_pd_apply,
    mm256_set_pd_apply, mm256_load_pd_apply, mm256_loadu_pd_add, mm256_loadu_pd_sub] <;>
  ring

theorem kernel_streamCollide.xi_72_lane_fused (s : Site K) (j : Fin 4) :
    kernel_streamCollide.xi_72 s j = FluctuatingMRTLatticeModel.kernel_streamCollide.xi_72 (lane s j) := by
  simp only [
    kernel_streamCollide.xi_72, FluctuatingMRTLatticeModel.kernel_streamCollide.xi_72,
    lane__data_force s j, lane_ctr_0 s j, lane_ctr_1 s j, lane_ctr_2 s j,
    mm256_add_pd_apply, mm256_mul_pd_apply, mm256_div_pd_apply, mm256_sqrt_pd_apply,
    mm256_set_pd_apply, mm256_load_pd_apply, mm256_loadu_pd_add, mm256_loadu_pd_sub] <;>
  ring

theorem kernel_streamCollide.xi_76_lane_fused (s : Site K) (j : Fin 4) :
    kernel_streamCollide.xi_76 s j = FluctuatingMRTLatticeModel.kernel_streamCollide.xi_76 (lane s j) := by
  simp only [
    kernel_streamCollide.xi_76, FluctuatingMRTLatticeModel.kernel_streamCollide.xi_76,
    lane__data_force s j, lane_ctr_0 s j, lane_ctr_1 s j, lane_ctr_2 s j,
    mm256_add_pd_apply, mm256_mul_pd_apply, mm256_div_pd_apply, mm256_sqrt_pd_apply,
    mm256_set_pd_apply, mm256_load_pd_apply, mm256_loadu_pd_add, mm256_loadu_pd_sub] <;>
  ring

theorem kernel_streamCollide.xi_80_lane_fused (s : Site K) (j : Fin 4) :
    kernel_streamCollide.xi_80 s j = FluctuatingMRTLatticeModel.kernel_streamCollide.xi_80 (lane s j) := by
  simp only [
    kernel_streamCollide.xi_80, FluctuatingMRTLatticeModel.kernel_streamCollide.xi_80,
    lane__data_force s j, lane_ctr_0 s j, lane_ctr_1 s j, lane_ctr_2 s j,
    mm256_add_pd_apply, mm256_mul_pd_apply, mm256_div_pd_apply, mm256_sqrt_pd_apply,
    mm256_set_pd_apply, mm256_load_pd_apply, mm256_loadu_pd_add, mm256_loadu_pd_sub] <;>
  ring

theorem kernel_streamCollide.xi_90_lane_fused (s : Site K) (j : Fin 4) :
    kernel_streamCollide.xi_90 s j = FluctuatingMRTLatticeModel.kernel_streamCollide.xi_90 (lane s j) := by
  simp only [
    kernel_streamCollide.xi_90, FluctuatingMRTLatticeModel.kernel_streamCollide.xi_90,
    lane__data_force s j, lane_ctr_0 s j, lane_ctr_1 s j, lane_ctr_2 s j,
    mm256_add_pd_apply, mm256_mul_pd_apply, mm256_div_pd_apply, mm256_sqrt_pd_apply,
    mm256_set_pd_apply, mm256_load_pd_apply, mm256_loadu_pd_add, mm256_loadu_pd_sub] <;>
  ring

theorem kernel_streamCollide.xi_108_lane_fused (s : Site K) (j : Fin 4) :
    kernel_streamCollide.xi_108 s j = FluctuatingMRTLatticeModel.kernel_streamCollide.xi_108 (lane s j) := by
  simp only [
    kernel_streamCollide.xi_108, FluctuatingMRTLatticeModel.kernel_streamCollide.xi_108,
    lane__data_pdfs s j, lane_ctr_0 s j, lane_ctr_1 s j, lane_ctr_2 s j,
    mm256_add_pd_apply, mm256_mul_pd_apply, mm256_div_pd_apply, mm256_sqrt_pd_apply,
    mm256_set_pd_apply, mm256_load_pd_apply, mm256_loadu_pd_add, mm256_loadu_pd_sub] <;>
  ring

theorem kernel_streamCollide.xi_109_lane_fused (s : Site K) (j : Fin 4) :
    kernel_streamCollide.xi_109 s j = FluctuatingMRTLatticeModel.kernel_streamCollide.xi_109 (lane s j) := by
  simp only [
    kernel_streamCollide.xi_109, FluctuatingMRTLatticeModel.kernel_streamCollide.xi_109,
    kernel_streamCollide.xi_108_lane_fused s j, lane__data_pdfs s j, lane_ctr_0 s j, lane_ctr_1 s j,
    lane_ctr_2 s j,
    mm256_add_pd_apply, mm256_mul_pd_apply, mm256_div_pd_apply, mm256_sqrt_pd_apply,
    mm256_set_pd_apply, mm256_load_pd_apply, mm256_loadu_pd_add, mm256_loadu_pd_sub] <;>
  ring

theorem kernel_streamCollide.xi_110_lane_fused (s : Site K) (j : Fin 4) :
    kernel_streamCollide.xi_110 s j = FluctuatingMRTLatticeModel.kernel_streamCollide.xi_110 (lane s j) := by
  simp only [
    kernel_streamCollide.xi_110, FluctuatingMRTLatticeModel.kernel_streamCollide.xi_110,
    kernel_streamCollide.xi_109_lane_fused s j, lane__data_pdfs s j, lane_omega_even s j, lane_ctr_0 s
    j, lane_ctr_1 s j, lane_ctr_2 s j,
    mm256_add_pd_apply, mm256_mul_pd_apply, mm256_div_pd_apply, mm256_sqrt_pd_apply,
    mm256_set_pd_apply, mm256_load_pd_apply, mm256_loadu_pd_add, mm256_loadu_pd_sub] <;>
  ring

theorem kernel_streamCollide.xi_111_lane_fused (s : Site K) (j : Fin 4) :
    kernel_streamCollide.xi_111 s j = FluctuatingMRTLatticeModel.kernel_streamCollide.xi_111 (lane s j) := by
  simp only [
    kernel_streamCollide.xi_111, FluctuatingMRTLatticeModel.kernel_streamCollide.xi_111,
    lane__data_pdfs s j, lane_ctr_0 s j, lane_ctr_1 s j, lane_ctr_2 s j,
    mm256_add_pd_apply, mm256_mul_pd_apply, mm256_div_pd_apply, mm256_sqrt_pd_apply,
    mm256_set_pd_apply, mm256_load_pd_apply, mm256_loadu_pd_add, mm256_loadu_pd_sub] <;>
  ring

theorem kernel_streamCollide.xi_112_lane_fused (s : Site K) (j : Fin 4) :
    kernel_streamCollide.xi_112 s j = FluctuatingMRTLatticeModel.kernel_streamCollide.xi_112 (lane s j) := by
  simp only [
    kernel_streamCollide.xi_112, FluctuatingMRTLatticeModel.kernel_streamCollide.xi_112,
    kernel_streamCollide.xi_111_lane_fused s j, lane__data_pdfs s j, lane_ctr_0 s j, lane_ctr_1 s j,
    lane_ctr_2 s j,
    mm256_add_pd_apply, mm256_mul_pd_apply, mm256_div_pd_apply, mm256_sqrt_pd_apply,
    mm256_set_pd_apply, mm256_load_pd_apply, mm256_loadu_pd_add, mm256_loadu_pd_sub] <;>
  ring

theorem kernel_streamCollide.xi_113_lane_fused (s : Site K) (j : Fin 4) :
    kernel_streamCollide.xi_113 s j = FluctuatingMRTLatticeModel.kernel_streamCollide.xi_113 (lane s j) := by
  simp only [
    kernel_streamCollide.xi_113, FluctuatingMRTLatticeModel.kernel_streamCollide.xi_113,
    kernel_streamCollide.xi_109_lane_fused s j, kernel_streamCollide.xi_112_lane_fused s j, lane__data_pdfs s
    j, lane_omega_even s j, lane_ctr_0 s j, lane_ctr_1 s j, lane_ctr_2 s j,
    mm256_add_pd_apply, mm256_mul_pd_apply, mm256_div_pd_apply, mm256_sqrt_pd_apply,
    mm256_set_pd_apply, mm256_load_pd_apply, mm256_loadu_pd_add, mm256_loadu_pd_sub] <;>
  ring

theorem kernel_streamCollide.xi_116_lane_fused (s : Site K) (j : Fin 4) :
    kernel_streamCollide.xi_116 s j = FluctuatingMRTLatticeModel.kernel_streamCollide.xi_116 (lane s j) := by
  simp only [
    kernel_streamCollide.xi_116, FluctuatingMRTLatticeModel.kernel_streamCollide.xi_116,
    lane__data_pdfs s j, lane_ctr_0 s j, lane_ctr_1 s j, lane_ctr_2 s j,
    mm256_add_pd_apply, mm256_mul_pd_apply, mm256_div_pd_apply, mm256_sqrt_pd_apply,
    mm256_set_pd_apply, mm256_load_pd_apply, mm256_loadu_pd_add, mm256_loadu_pd_sub] <;>
  ring

theorem kernel_streamCollide.xi_117_lane_fused (s : Site K) (j : Fin 4) :
    kernel_streamCollide.xi_117 s j = FluctuatingMRTLatticeModel.kernel_streamCollide.xi_117 (lane s j) := by
  simp only [
    kernel_streamCollide.xi_117, FluctuatingMRTLatticeModel.kernel_streamCollide.xi_117,
    kernel_streamCollide.xi_22_lane_fused s j, kernel_streamCollide.xi_116_lane_fused s j,
    mm256_add_pd_apply, mm256_mul_pd_apply, mm256_div_pd_apply, mm256_sqrt_pd_apply,
    mm256_set_pd_apply, mm256_load_pd_apply, mm256_loadu_pd_add, mm256_loadu_pd_sub] <;>
  ring

theorem kernel_streamCollide.xi_118_lane_fused (s : Site K) (j : Fin 4) :
    kernel_streamCollide.xi_118 s j = FluctuatingMRTLatticeModel.kernel_streamCollide.xi_118 (lane s j) := by
  simp only [
    kernel_streamCollide.xi_118, FluctuatingMRTLatticeModel.kernel_streamCollide.xi_118,
    lane__data_pdfs s j, lane_ctr_0 s j, lane_ctr_1 s j, lane_ctr_2 s j,
    mm256_add_pd_apply, mm256_mul_pd_apply, mm256_div_pd_apply, mm256_sqrt_pd_apply,
    mm256_set_pd_apply, mm256_load_pd_apply, mm256_loadu_pd_add, mm256_loadu_pd_sub] <;>
  ring

theorem kernel_streamCollide.xi_121_lane_fused (s : Site K) (j : Fin 4) :
    kernel_streamCollide.xi_121 s j = FluctuatingMRTLatticeModel.kernel_streamCollide.xi_121 (lane s j) := by
  simp only [
    kernel_streamCollide.xi_121, FluctuatingMRTLatticeModel.kernel_streamCollide.xi_121,
    lane__data_pdfs s j, lane_ctr_0 s j, lane_ctr_1 s j, lane_ctr_2 s j,
    mm256_add_pd_apply, mm256_mul_pd_apply, mm256_div_pd_apply, mm256_sqrt_pd_apply,
    mm256_set_pd_apply, mm256_load_pd_apply, mm256_loadu_pd_add, mm256_loadu_pd_sub] <;>
  ring

theorem kernel_streamCollide.xi_122_lane_fused (s : Site K) (j : Fin 4) :
    kernel_streamCollide.xi_122 s j = FluctuatingMRTLatticeModel.kernel_streamCollide.xi_122 (lane s j) := by
  simp only [
    kernel_streamCollide.xi_122, FluctuatingMRTLatticeModel.kernel_streamCollide.xi_122,
    kernel_streamCollide.xi_19_lane_fused s j, kernel_streamCollide.xi_27_lane_fused s j,
    kernel_streamCollide.xi_121_lane_fused s j,
    mm256_add_pd_apply, mm256_mul_pd_apply, mm256_div_pd_apply, mm256_sqrt_pd_apply,
    mm256_set_pd_apply, mm256_load_pd_apply, mm256_loadu_pd_add, mm256_loadu_pd_sub] <;>
  ring

theorem kernel_streamCollide.xi_124_lane_fused (s : Site K) (j : Fin 4) :
    kernel_streamCollide.xi_124 s j = FluctuatingMRTLatticeModel.kernel_streamCollide.xi_124 (lane s j) := by
  simp only [
    kernel_streamCollide.xi_124, FluctuatingMRTLatticeModel.kernel_streamCollide.xi_124,
    lane__data_pdfs s j, lane_ctr_0 s j, lane_ctr_1 s j, lane_ctr_2 s j,
    mm256_add_pd_apply, mm256_mul_pd_apply, mm256_div_pd_apply, mm256_sqrt_pd_apply,
    mm256_set_pd_apply, mm256_load_pd_apply, mm256_loadu_pd_add, mm256_loadu_pd_sub] <;>
  ring

theorem kernel_streamCollide.xi_125_lane_fused (s : Site K) (j : Fin 4) :
    kernel_streamCollide.xi_125 s j = FluctuatingMRTLatticeModel.kernel_streamCollide.xi_125 (lane s j) := by
  simp only [
    kernel_streamCollide.xi_125, FluctuatingMRTLatticeModel.kernel_streamCollide.xi_125,
    lane__data_pdfs s j, lane_ctr_0 s j, lane_ctr_1 s j, lane_ctr_2 s j,
    mm256_add_pd_apply, mm256_mul_pd_apply, mm256_div_pd_apply, mm256_sqrt_pd_apply,
    mm256_set_pd_apply, mm256_load_pd_apply, mm256_loadu_pd_add, mm256_loadu_pd_sub] <;>
  ring

theorem kernel_streamCollide.xi_126_lane_fused (s : Site K) (j : Fin 4) :
    kernel_streamCollide.xi_126 s j = FluctuatingMRTLatticeModel.kernel_streamCollide.xi_126 (lane s j) := by
  simp only [
    kernel_streamCollide.xi_126, FluctuatingMRTLatticeModel.kernel_streamCollide.xi_126,
    lane__data_pdfs s j, lane_ctr_0 s j, lane_ctr_1 s j, lane_ctr_2 s j,
    mm256_add_pd_apply, mm256_mul_pd_apply, mm256_div_pd_apply, mm256_sqrt_pd_apply,
    mm256_set_pd_apply, mm256_load_pd_apply, mm256_loadu_pd_add, mm256_loadu_pd_sub] <;>
  ring

theorem kernel_streamCollide.xi_127_lane_fused (s : Site K) (j : Fin 4) :
    kernel_streamCollide.xi_127 s j = FluctuatingMRTLatticeModel.kernel_streamCollide.xi_127 (lane s j) := by
  simp only [
    kernel_streamCollide.xi_127, FluctuatingMRTLatticeModel.kernel_streamCollide.xi_127,
    kernel_streamCollide.xi_108_lane_fused s j, kernel_streamCollide.xi_112_lane_fused s j,
    kernel_streamCollide.xi_124_lane_fused s j, kernel_streamCollide.xi_125_lane_fused s j,
    kernel_streamCollide.xi_126_lane_fused s j, lane__data_pdfs s j, lane_omega_even s j, lane_ctr_0 s
    j, lane_ctr_1 s j, lane_ctr_2 s j,
    mm256_add_pd_apply, mm256_mul_pd_apply, mm256_div_pd_apply, mm256_sqrt_pd_apply,
    mm256_set_pd_apply, mm256_load_pd_apply, mm256_loadu_pd_add, mm256_loadu_pd_sub] <;>
  ring

theorem kernel_streamCollide.xi_128_lane_fused (s : Site K) (j : Fin 4) :
    kernel_streamCollide.xi_128 s j = FluctuatingMRTLatticeModel.kernel_streamCollide.xi_128 (lane s j) := by
  simp only [
    kernel_streamCollide.xi_128, FluctuatingMRTLatticeModel.kernel_streamCollide.xi_128,
    kernel_streamCollide.xi_23_lane_fused s j, kernel_streamCollide.xi_38_lane_fused s j,
    kernel_streamCollide.xi_116_lane_fused s j, lane__data_pdfs s j, lane_ctr_0 s j, lane_ctr_1 s j,
    lane_ctr_2 s j,
    mm256_add_pd_apply, mm256_mul_pd_apply, mm256_div_pd_apply, mm256_sqrt_pd_apply,
    mm256_set_pd_apply, mm256_load_pd_apply, mm256_loadu_pd_add, mm256_loadu_pd_sub] <;>
  ring

theorem kernel_streamCollide.xi_130_lane_fused (s : Site K) (j : Fin 4) :
    kernel_streamCollide.xi_130 s j = FluctuatingMRTLatticeModel.kernel_streamCollide.xi_130 (lane s j) := by
  simp only [
    kernel_streamCollide.xi_130, FluctuatingMRTLatticeModel.kernel_streamCollide.xi_130,
    kernel_streamCollide.xi_129_lane_fused s j, kernel_streamCollide.xi_128_lane_fused s j,
    mm256_add_pd_apply, mm256_mul_pd_apply, mm256_div_pd_apply, mm256_sqrt_pd_apply,
    mm256_set_pd_apply, mm256_load_pd_apply, mm256_loadu_pd_add, mm256_loadu_pd_sub] <;>
  ring

theorem kernel_streamCollide.xi_135_lane_fused (s : Site K) (j : Fin 4) :
    kernel_streamCollide.xi_135 s j = FluctuatingMRTLatticeModel.kernel_streamCollide.xi_135 (lane s j) := by
  simp only [
    kernel_streamCollide.xi_135, FluctuatingMRTLatticeModel.kernel_streamCollide.xi_135,
    kernel_streamCollide.random_5_1_lane_fused s j,
    mm256_add_pd_apply, mm256_mul_pd_apply, mm256_div_pd_apply, mm256_sqrt_pd_apply,
    mm256_set_pd_apply, mm256_load_pd_apply, mm256_loadu_pd_add, mm256_loadu_pd_sub] <;>
  ring

theorem kernel_streamCollide.xi_140_lane_fused (s : Site K) (j : Fin 4) :
    kernel_streamCollide.xi_140 s j = FluctuatingMRTLatticeModel.kernel_streamCollide.xi_140 (lane s j) := by
  simp only [
    kernel_streamCollide.xi_140, FluctuatingMRTLatticeModel.kernel_streamCollide.xi_140,
    lane__data_pdfs s j, lane_ctr_0 s j, lane_ctr_1 s j, lane_ctr_2 s j,
    mm256_add_pd_apply, mm256_mul_pd_apply, mm256_div_pd_apply, mm256_sqrt_pd_apply,
    mm256_set_pd_apply, mm256_load_pd_apply, mm256_loadu_pd_add, mm256_loadu_pd_sub] <;>
  ring

theorem kernel_streamCollide.xi_141_lane_fused (s : Site K) (j : Fin 4) :
    kernel_streamCollide.xi_141 s j = FluctuatingMRTLatticeModel.kernel_streamCollide.xi_141 (lane s j) := by
  simp only [
    kernel_streamCollide.xi_141, FluctuatingMRTLatticeModel.kernel_streamCollide.xi_141,
    lane__data_pdfs s j, lane_ctr_0 s j, lane_ctr_1 s j, lane_ctr_2 s j,
    mm256_add_pd_apply, mm256_mul_pd_apply, mm256_div_pd_apply, mm256_sqrt_pd_apply,
    mm256_set_pd_apply, mm256_load_pd_apply, mm256_loadu_pd_add, mm256_loadu_pd_sub] <;>
  ring

theorem kernel_streamCollide.xi_142_lane_fused (s : Site K) (j : Fin 4) :
    kernel_streamCollide.xi_142 s j = FluctuatingMRTLatticeModel.kernel_streamCollide.xi_142 (lane s j) := by
  simp only [
    kernel_streamCollide.xi_142, FluctuatingMRTLatticeModel.kernel_streamCollide.xi_142,
    lane__data_pdfs s j, lane_ctr_0 s j, lane_ctr_1 s j, lane_ctr_2 s j,
    mm256_add_pd_apply, mm256_mul_pd_apply, mm256_div_pd_apply, mm256_sqrt_pd_apply,
    mm256_set_pd_apply, mm256_load_pd_apply, mm256_loadu_pd_add, mm256_loadu_pd_sub] <;>
  ring

theorem kernel_streamCollide.xi_143_lane_fused (s : Site K) (j : Fin 4) :
    kernel_streamCollide.xi_143 s j = FluctuatingMRTLatticeModel.kernel_streamCollide.xi_143 (lane s j) := by
  simp only [
    kernel_streamCollide.xi_143, FluctuatingMRTLatticeModel.kernel_streamCollide.xi_143,
    kernel_streamCollide.xi_4_lane_fused s j, kernel_streamCollide.xi_25_lane_fused s j,
    kernel_streamCollide.xi_140_lane_fused s j, kernel_streamCollide.xi_141_lane_fused s j,
    kernel_streamCollide.xi_142_lane_fused s j,
    mm256_add_pd_apply, mm256_mul_pd_apply, mm256_div_pd_apply, mm256_sqrt_pd_apply,
    mm256_set_pd_apply, mm256_load_pd_apply, mm256_loadu_pd_add, mm256_loadu_pd_sub] <;>
  ring

theorem kernel_streamCollide.xi_145_lane_fused (s : Site K) (j : Fin 4) :
    kernel_streamCollide.xi_145 s j = FluctuatingMRTLatticeModel.kernel_streamCollide.xi_145 (lane s j) := by
  simp only [
    kernel_streamCollide.xi_145, FluctuatingMRTLatticeModel.kernel_streamCollide.xi_145,
    kernel_streamCollide.xi_144_lane_fused s j, kernel_streamCollide.xi_143_lane_fused s j,
    mm256_add_pd_apply, mm256_mul_pd_apply, mm256_div_pd_apply, mm256_sqrt_pd_apply,
    mm256_set_pd_apply, mm256_load_pd_apply, mm256_loadu_pd_add, mm256_loadu_pd_sub] <;>
  ring

theorem kernel_streamCollide.xi_146_lane_fused (s : Site K) (j : Fin 4) :
    kernel_streamCollide.xi_146 s j = FluctuatingMRTLatticeModel.kernel_streamCollide.xi_146 (lane s j) := by
  simp only [
    kernel_streamCollide.xi_146, FluctuatingMRTLatticeModel.kernel_streamCollide.xi_146,
    kernel_streamCollide.random_3_0_lane_fused s j,
    mm256_add_pd_apply, mm256_mul_pd_apply, mm256_div_pd_apply, mm256_sqrt_pd_apply,
    mm256_set_pd_apply, mm256_load_pd_apply, mm256_loadu_pd_add, mm256_loadu_pd_sub] <;>
  ring

theorem kernel_streamCollide.xi_151_lane_fused (s : Site K) (j : Fin 4) :
    kernel_streamCollide.xi_151 s j = FluctuatingMRTLatticeModel.kernel_streamCollide.xi_151 (lane s j) := by
  simp only [
    kernel_streamCollide.xi_151, FluctuatingMRTLatticeModel.kernel_streamCollide.xi_151,
    kernel_streamCollide.random_0_1_lane_fused s j,
    mm256_add_pd_apply, mm256_mul_pd_apply, mm256_div_pd_apply, mm256_sqrt_pd_apply,
    mm256_set_pd_apply, mm256_load_pd_apply, mm256_loadu_pd_add, mm256_loadu_pd_sub] <;>
  ring

theorem kernel_streamCollide.xi_168_lane_fused (s : Site K) (j : Fin 4) :
    kernel_streamCollide.xi_168 s j = FluctuatingMRTLatticeModel.kernel_streamCollide.xi_168 (lane s j) := by
  simp only [
    kernel_streamCollide.xi_168, FluctuatingMRTLatticeModel.kernel_streamCollide.xi_168,
    kernel_streamCollide.xi_13_lane_fused s j, kernel_streamCollide.xi_34_lane_fused s j,
    kernel_streamCollide.xi_121_lane_fused s j, lane__data_pdfs s j, lane_ctr_0 s j, lane_ctr_1 s j,
    lane_ctr_2 s j,
    mm256_add_pd_apply, mm256_mul_pd_apply, mm256_div_pd_apply, mm256_sqrt_pd_apply,
    mm256_set_pd_apply, mm256_load_pd_apply, mm256_loadu_pd_add, mm256_loadu_pd_sub] <;>
  ring

theorem kernel_streamCollide.xi_169_lane_fused (s : Site K) (j : Fin 4) :
    kernel_streamCollide.xi_169 s j = FluctuatingMRTLatticeModel.kernel_streamCollide.xi_169 (lane s j) := by
  simp only [
    kernel_streamCollide.xi_169, FluctuatingMRTLatticeModel.kernel_streamCollide.xi_169,
    kernel_streamCollide.xi_129_lane_fused s j, kernel_streamCollide.xi_168_lane_fused s j,
    mm256_add_pd_apply, mm256_mul_pd_apply, mm256_div_pd_apply, mm256_sqrt_pd_apply,
    mm256_set_pd_apply, mm256_load_pd_apply, mm256_loadu_pd_add, mm256_loadu_pd_sub] <;>
  ring

theorem kernel_streamCollide.xi_170_lane_fused (s : Site K) (j : Fin 4) :
    kernel_streamCollide.xi_170 s j = FluctuatingMRTLatticeModel.kernel_streamCollide.xi_170 (lane s j) := by
  simp only [
    kernel_streamCollide.xi_170, FluctuatingMRTLatticeModel.kernel_streamCollide.xi_170,
    kernel_streamCollide.random_4_1_lane_fused s j,
    mm256_add_pd_apply, mm256_mul_pd_apply, mm256_div_pd_apply, mm256_sqrt_pd_apply,
    mm256_set_pd_apply, mm256_load_pd_apply, mm256_loadu_pd_add, mm256_loadu_pd_sub] <;>
  ring

theorem kernel_streamCollide.xi_172_lane_fused (s : Site K) (j : Fin 4) :
    kernel_streamCollide.xi_172 s j = FluctuatingMRTLatticeModel.kernel_streamCollide.xi_172 (lane s j) := by
  simp only [
    kernel_streamCollide.xi_172, FluctuatingMRTLatticeModel.kernel_streamCollide.xi_172,
    kernel_streamCollide.xi_14_lane_fused s j, kernel_streamCollide.xi_35_lane_fused s j,
    kernel_streamCollide.xi_140_lane_fused s j, kernel_streamCollide.xi_141_lane_fused s j,
    kernel_streamCollide.xi_142_lane_fused s j, lane__data_pdfs s j, lane_ctr_0 s j, lane_ctr_1 s j,
    lane_ctr_2 s j,
    mm256_add_pd_apply, mm256_mul_pd_apply, mm256_div_pd_apply, mm256_sqrt_pd_apply,
    mm256_set_pd_apply, mm256_load_pd_apply, mm256_loadu_pd_add, mm256_loadu_pd_sub] <;>
  ring

theorem kernel_streamCollide.xi_173_lane_fused (s : Site K) (j : Fin 4) :
    kernel_streamCollide.xi_173 s j = FluctuatingMRTLatticeModel.kernel_streamCollide.xi_173 (lane s j) := by
  simp only [
    kernel_streamCollide.xi_173, FluctuatingMRTLatticeModel.kernel_streamCollide.xi_173,
    kernel_streamCollide.xi_144_lane_fused s j, kernel_streamCollide.xi_172_lane_fused s j,
    mm256_add_pd_apply, mm256_mul_pd_apply, mm256_div_pd_apply, mm256_sqrt_pd_apply,
    mm256_set_pd_apply, mm256_load_pd_apply, mm256_loadu_pd_add, mm256_loadu_pd_sub] <;>
  ring

theorem kernel_streamCollide.xi_174_lane_fused (s : Site K) (j : Fin 4) :
    kernel_streamCollide.xi_174 s j = FluctuatingMRTLatticeModel.kernel_streamCollide.xi_174 (lane s j) := by
  simp only [
    kernel_streamCollide.xi_174, FluctuatingMRTLatticeModel.kernel_streamCollide.xi_174,
    kernel_streamCollide.random_4_0_lane_fused s j,
    mm256_add_pd_apply, mm256_mul_pd_apply, mm256_div_pd_apply, mm256_sqrt_pd_apply,
    mm256_set_pd_apply, mm256_load_pd_apply, mm256_loadu_pd_add, mm256_loadu_pd_sub] <;>
  ring

theorem kernel_streamCollide.xi_179_lane_fused (s : Site K) (j : Fin 4) :
    kernel_streamCollide.xi_179 s j = FluctuatingMRTLatticeModel.kernel_streamCollide.xi_179 (lane s j) := by
  simp only [
    kernel_streamCollide.xi_179, FluctuatingMRTLatticeModel.kernel_streamCollide.xi_179,
    lane__data_pdfs s j, lane_ctr_0 s j, lane_ctr_1 s j, lane_ctr_2 s j,
    mm256_add_pd_apply, mm256_mul_pd_apply, mm256_div_pd_apply, mm256_sqrt_pd_apply,
    mm256_set_pd_apply, mm256_load_pd_apply, mm256_loadu_pd_add, mm256_loadu_pd_sub] <;>
  ring

theorem kernel_streamCollide.xi_180_lane_fused (s : Site K) (j : Fin 4) :
    kernel_streamCollide.xi_180 s j = FluctuatingMRTLatticeModel.kernel_streamCollide.xi_180 (lane s j) := by
  simp only [
    kernel_streamCollide.xi_180, FluctuatingMRTLatticeModel.kernel_streamCollide.xi_180,
    kernel_streamCollide.xi_29_lane_fused s j, kernel_streamCollide.xi_117_lane_fused s j,
    kernel_streamCollide.xi_179_lane_fused s j, lane__data_pdfs s j, lane_ctr_0 s j, lane_ctr_1 s j,
    lane_ctr_2 s j,
    mm256_add_pd_apply, mm256_mul_pd_apply, mm256_div_pd_apply, mm256_sqrt_pd_apply,
    mm256_set_pd_apply, mm256_load_pd_apply, mm256_loadu_pd_add, mm256_loadu_pd_sub] <;>
  ring

theorem kernel_streamCollide.xi_181_lane_fused (s : Site K) (j : Fin 4) :
    kernel_streamCollide.xi_181 s j = FluctuatingMRTLatticeModel.kernel_streamCollide.xi_181 (lane s j) := by
  simp only [
    kernel_streamCollide.xi_181, FluctuatingMRTLatticeModel.kernel_streamCollide.xi_181,
    kernel_streamCollide.xi_129_lane_fused s j, kernel_streamCollide.xi_180_lane_fused s j,
    mm256_add_pd_apply, mm256_mul_pd_apply, mm256_div_pd_apply, mm256_sqrt_pd_apply,
    mm256_set_pd_apply, mm256_load_pd_apply, mm256_loadu_pd_add, mm256_loadu_pd_sub] <;>
  ring

theorem kernel_streamCollide.xi_184_lane_fused (s : Site K) (j : Fin 4) :
    kernel_streamCollide.xi_184 s j = FluctuatingMRTLatticeModel.kernel_streamCollide.xi_184 (lane s j) := by
  simp only [
    kernel_streamCollide.xi_184, FluctuatingMRTLatticeModel.kernel_streamCollide.xi_184,
    kernel_streamCollide.random_5_0_lane_fused s j,
    mm256_add_pd_apply, mm256_mul_pd_apply, mm256_div_pd_apply, mm256_sqrt_pd_apply,
    mm256_set_pd_apply, mm256_load_pd_apply, mm256_loadu_pd_add, mm256_loadu_pd_sub] <;>
  ring

theorem kernel_streamCollide.xi_186_lane_fused (s : Site K) (j : Fin 4) :
    kernel_streamCollide.xi_186 s j = FluctuatingMRTLatticeModel.kernel_streamCollide.xi_186 (lane s j) := by
  simp only [
    kernel_streamCollide.xi_186, FluctuatingMRTLatticeModel.kernel_streamCollide.xi_186,
    kernel_streamCollide.xi_6_lane_fused s j, kernel_streamCollide.xi_30_lane_fused s j,
    kernel_streamCollide.xi_124_lane_fused s j, kernel_streamCollide.xi_125_lane_fused s j,
    kernel_streamCollide.xi_126_lane_fused s j,
    mm256_add_pd_apply, mm256_mul_pd_apply, mm256_div_pd_apply, mm256_sqrt_pd_apply,
    mm256_set_pd_apply, mm256_load_pd_apply, mm256_loadu_pd_add, mm256_loadu_pd_sub] <;>
  ring

theorem kernel_streamCollide.xi_187_lane_fused (s : Site K) (j : Fin 4) :
    kernel_streamCollide.xi_187 s j = FluctuatingMRTLatticeModel.kernel_streamCollide.xi_187 (lane s j) := by
  simp only [
    kernel_streamCollide.xi_187, FluctuatingMRTLatticeModel.kernel_streamCollide.xi_187,
    kernel_streamCollide.xi_144_lane_fused s j, kernel_streamCollide.xi_186_lane_fused s j,
    mm256_add_pd_apply, mm256_mul_pd_apply, mm256_div_pd_apply, mm256_sqrt_pd_apply,
    mm256_set_pd_apply, mm256_load_pd_apply, mm256_loadu_pd_add, mm256_loadu_pd_sub] <;>
  ring

theorem kernel_streamCollide.xi_188_lane_fused (s : Site K) (j : Fin 4) :
    kernel_streamCollide.xi_188 s j = FluctuatingMRTLatticeModel.kernel_streamCollide.xi_188 (lane s j) := by
  simp only [
    kernel_streamCollide.xi_188, FluctuatingMRTLatticeModel.kernel_streamCollide.xi_188,
    kernel_streamCollide.random_3_1_lane_fused s j,
    mm256_add_pd_apply, mm256_mul_pd_apply, mm256_div_pd_apply, mm256_sqrt_pd_apply,
    mm256_set_pd_apply, mm256_load_pd_apply, mm256_loadu_pd_add, mm256_loadu_pd_sub] <;>
  ring

theorem kernel_streamCollide.xi_195_lane_fused (s : Site K) (j : Fin 4) :
    kernel_streamCollide.xi_195 s j = FluctuatingMRTLatticeModel.kernel_streamCollide.xi_195 (lane s j) := by
  simp only [
    kernel_streamCollide.xi_195, FluctuatingMRTLatticeModel.kernel_streamCollide.xi_195,
    kernel_streamCollide.xi_127_lane_fused s j,
    mm256_add_pd_apply, mm256_mul_pd_apply, mm256_div_pd_apply, mm256_sqrt_pd_apply,
    mm256_set_pd_apply, mm256_load_pd_apply, mm256_loadu_pd_add, mm256_loadu_pd_sub] <;>
  ring

theorem kernel_streamCollide.xi_216_lane_fused (s : Site K) (j : Fin 4) :
    kernel_streamCollide.xi_216 s j = FluctuatingMRTLatticeModel.kernel_streamCollide.xi_216 (lane s j) := by
  simp only [
    kernel_streamCollide.xi_216, FluctuatingMRTLatticeModel.kernel_streamCollide.xi_216,
    kernel_streamCollide.xi_113_lane_fused s j,
    mm256_add_pd_apply, mm256_mul_pd_apply, mm256_div_pd_apply, mm256_sqrt_pd_apply,
    mm256_set_pd_apply, mm256_load_pd_apply, mm256_loadu_pd_add, mm256_loadu_pd_sub] <;>
  ring

theorem kernel_streamCollide.xi_218_lane_fused (s : Site K) (j : Fin 4) :
    kernel_streamCollide.xi_218 s j = FluctuatingMRTLatticeModel.kernel_streamCollide.xi_218 (lane s j) := by
  simp only [
    kernel_streamCollide.xi_218, FluctuatingMRTLatticeModel.kernel_streamCollide.xi_218,
    kernel_streamCollide.xi_110_lane_fused s j,
    mm256_add_pd_apply, mm256_mul_pd_apply, mm256_div_pd_apply, mm256_sqrt_pd_apply,
    mm256_set_pd_apply, mm256_load_pd_apply, mm256_loadu_pd_add, mm256_loadu_pd_sub] <;>
  ring

theorem kernel_streamCollide.xi_223_lane_fused (s : Site K) (j : Fin 4) :
    kernel_streamCollide.xi_223 s j = FluctuatingMRTLatticeModel.kernel_streamCollide.xi_223 (lane s j) := by
  simp only [
    kernel_streamCollide.xi_223, FluctuatingMRTLatticeModel.kernel_streamCollide.xi_223,
    kernel_streamCollide.xi_222_lane_fused s j, kernel_streamCollide.xi_186_lane_fused s j,
    mm256_add_pd_apply, mm256_mul_pd_apply, mm256_div_pd_apply, mm256_sqrt_pd_apply,
    mm256_set_pd_apply, mm256_load_pd_apply, mm256_loadu_pd_add, mm256_loadu_pd_sub] <;>
  ring

theorem kernel_streamCollide.xi_225_lane_fused (s : Site K) (j : Fin 4) :
    kernel_streamCollide.xi_225 s j = FluctuatingMRTLatticeModel.kernel_streamCollide.xi_225 (lane s j) := by
  simp only [
    kernel_streamCollide.xi_225, FluctuatingMRTLatticeModel.kernel_streamCollide.xi_225,
    kernel_streamCollide.xi_224_lane_fused s j, kernel_streamCollide.xi_180_lane_fused s j,
    mm256_add_pd_apply, mm256_mul_pd_apply, mm256_div_pd_apply, mm256_sqrt_pd_apply,
    mm256_set_pd_apply, mm256_load_pd_apply, mm256_loadu_pd_add, mm256_loadu_pd_sub] <;>
  ring

theorem kernel_streamCollide.xi_234_lane_fused (s : Site K) (j : Fin 4) :
    kernel_streamCollide.xi_234 s j = FluctuatingMRTLatticeModel.kernel_streamCollide.xi_234 (lane s j) := by
  simp only [
    kernel_streamCollide.xi_234, FluctuatingMRTLatticeModel.kernel_streamCollide.xi_234,
    kernel_streamCollide.xi_222_lane_fused s j, kernel_streamCollide.xi_143_lane_fused s j,
    mm256_add_pd_apply, mm256_mul_pd_apply, mm256_div_pd_apply, mm256_sqrt_pd_apply,
    mm256_set_pd_apply, mm256_load_pd_apply, mm256_loadu_pd_add, mm256_loadu_pd_sub] <;>
  ring

theorem kernel_streamCollide.xi_235_lane_fused (s : Site K) (j : Fin 4) :
    kernel_streamCollide.xi_235 s j = FluctuatingMRTLatticeModel.kernel_streamCollide.xi_235 (lane s j) := by
  simp only [
    kernel_streamCollide.xi_235, FluctuatingMRTLatticeModel.kernel_streamCollide.xi_235,
    kernel_streamCollide.xi_224_lane_fused s j, kernel_streamCollide.xi_128_lane_fused s j,
    mm256_add_pd_apply, mm256_mul_pd_apply, mm256_div_pd_apply, mm256_sqrt_pd_apply,
    mm256_set_pd_apply, mm256_load_pd_apply, mm256_loadu_pd_add, mm256_loadu_pd_sub] <;>
  ring

theorem kernel_streamCollide.xi_243_lane_fused (s : Site K) (j : Fin 4) :
    kernel_streamCollide.xi_243 s j = FluctuatingMRTLatticeModel.kernel_streamCollide.xi_243 (lane s j) := by
  simp only [
    kernel_streamCollide.xi_243, FluctuatingMRTLatticeModel.kernel_streamCollide.xi_243,
    kernel_streamCollide.xi_113_lane_fused s j,
    mm256_add_pd_apply, mm256_mul_pd_apply, mm256_div_pd_apply, mm256_sqrt_pd_apply,
    mm256_set_pd_apply, mm256_load_pd_apply, mm256_loadu_pd_add, mm256_loadu_pd_sub] <;>
  ring

theorem kernel_streamCollide.xi_249_lane_fused (s : Site K) (j : Fin 4) :
    kernel_streamCollide.xi_249 s j = FluctuatingMRTLatticeModel.kernel_streamCollide.xi_249 (lane s j) := by
  simp only [
    kernel_streamCollide.xi_249, FluctuatingMRTLatticeModel.kernel_streamCollide.xi_249,
    kernel_streamCollide.xi_224_lane_fused s j, kernel_streamCollide.xi_168_lane_fused s j,
    mm256_add_pd_apply, mm256_mul_pd_apply, mm256_div_pd_apply, mm256_sqrt_pd_apply,
    mm256_set_pd_apply, mm256_load_pd_apply, mm256_loadu_pd_add, mm256_loadu_pd_sub] <;>
  ring

theorem kernel_streamCollide.xi_250_lane_fused (s : Site K) (j : Fin 4) :
    kernel_streamCollide.xi_250 s j = FluctuatingMRTLatticeModel.kernel_streamCollide.xi_250 (lane s j) := by
  simp only [
    kernel_streamCollide.xi_250, FluctuatingMRTLatticeModel.kernel_streamCollide.xi_250,
    kernel_streamCollide.xi_222_lane_fused s j, kernel_streamCollide.xi_172_lane_fused s j,
    mm256_add_pd_apply, mm256_mul_pd_apply, mm256_div_pd_apply, mm256_sqrt_pd_apply,
    mm256_set_pd_apply, mm256_load_pd_apply, mm256_loadu_pd_add, mm256_loadu_pd_sub] <;>
  ring

theorem kernel_streamCollide.vel0Term_lane_fused (s : Site K) (j : Fin 4) :
    kernel_streamCollide.vel0Term s j = FluctuatingMRTLatticeModel.kernel_streamCollide.vel0Term (lane s j) := by
  simp only [
    kernel_streamCollide.vel0Term, FluctuatingMRTLatticeModel.kernel_streamCollide.vel0Term,
    kernel_streamCollide.xi_2_lane_fused s j,
    mm256_add_pd_apply, mm256_mul_pd_apply, mm256_div_pd_apply, mm256_sqrt_pd_apply,
    mm256_set_pd_apply, mm256_load_pd_apply, mm256_loadu_pd_add, mm256_loadu_pd_sub] <;>
  ring

theorem kernel_streamCollide.vel1Term_lane_fused (s : Site K) (j : Fin 4) :
    kernel_streamCollide.vel1Term s j = FluctuatingMRTLatticeModel.kernel_streamCollide.vel1Term (lane s j) := by
  simp only [
    kernel_streamCollide.vel1Term, FluctuatingMRTLatticeModel.kernel_streamCollide.vel1Term,
    kernel_streamCollide.xi_5_lane_fused s j,
    mm256_add_pd_apply, mm256_mul_pd_apply, mm256_div_pd_apply, mm256_sqrt_pd_apply,
    mm256_set_pd_apply, mm256_load_pd_apply, mm256_loadu_pd_add, mm256_loadu_pd_sub] <;>
  ring

theorem kernel_streamCollide.vel2Term_lane_fused (s : Site K) (j : Fin 4) :
    kernel_streamCollide.vel2Term s j = FluctuatingMRTLatticeModel.kernel_streamCollide.vel2Term (lane s j) := by
  simp only [
    kernel_streamCollide.vel2Term, FluctuatingMRTLatticeModel.kernel_streamCollide.vel2Term,
    kernel_streamCollide.xi_7_lane_fused s j,
    mm256_add_pd_apply, mm256_mul_pd_apply, mm256_div_pd_apply, mm256_sqrt_pd_apply,
    mm256_set_pd_apply, mm256_load_pd_apply, mm256_loadu_pd_add, mm256_loadu_pd_sub] <;>
  ring

theorem kernel_streamCollide.rho_lane_fused (s : Site K) (j : Fin 4) :
    kernel_streamCollide.rho s j = FluctuatingMRTLatticeModel.kernel_streamCollide.rho (lane s j) := by
  simp only [
    kernel_streamCollide.rho, FluctuatingMRTLatticeModel.kernel_streamCollide.rho,
    kernel_streamCollide.xi_8_lane_fused s j, kernel_streamCollide.xi_9_lane_fused s j,
    kernel_streamCollide.xi_10_lane_fused s j, kernel_streamCollide.vel0Term_lane_fused s j,
    kernel_streamCollide.vel1Term_lane_fused s j, kernel_streamCollide.vel2Term_lane_fused s j,
    lane__data_pdfs s j, lane_ctr_0 s j, lane_ctr_1 s j, lane_ctr_2 s j,
    mm256_add_pd_apply, mm256_mul_pd_apply, mm256_div_pd_apply, mm256_sqrt_pd_apply,
    mm256_set_pd_apply, mm256_load_pd_apply, mm256_loadu_pd_add, mm256_loadu_pd_sub] <;>
  ring

theorem kernel_streamCollide.xi_11_lane_fused (s : Site K) (j : Fin 4) :
    kernel_streamCollide.xi_11 s j = FluctuatingMRTLatticeModel.kernel_streamCollide.xi_11 (lane s j) := by
  simp only [
    kernel_streamCollide.xi_11, FluctuatingMRTLatticeModel.kernel_streamCollide.xi_11,
    kernel_streamCollide.rho_lane_fused s j,
    mm256_add_pd_apply, mm256_mul_pd_apply, mm256_div_pd_apply, mm256_sqrt_pd_apply,
    mm256_set_pd_apply, mm256_load_pd_apply, mm256_loadu_pd_add, mm256_loadu_pd_sub] <;>
  ring

theorem kernel_streamCollide.xi_101_lane_fused (s : Site K) (j : Fin 4) :
    kernel_streamCollide.xi_101 s j = FluctuatingMRTLatticeModel.kernel_streamCollide.xi_101 (lane s j) := by
  simp only [
    kernel_streamCollide.xi_101, FluctuatingMRTLatticeModel.kernel_streamCollide.xi_101,
    kernel_streamCollide.rho_lane_fused s j, lane_kT s j,
    mm256_add_pd_apply, mm256_mul_pd_apply, mm256_div_pd_apply, mm256_sqrt_pd_apply,
    mm256_set_pd_apply, mm256_load_pd_apply, mm256_loadu_pd_add, mm256_loadu_pd_sub] <;>
  ring

theorem kernel_streamCollide.xi_102_lane_fused (s : Site K) (j : Fin 4) :
    kernel_streamCollide.xi_102 s j = FluctuatingMRTLatticeModel.kernel_streamCollide.xi_102 (lane s j) := by
  simp only [
    kernel_streamCollide.xi_102, FluctuatingMRTLatticeModel.kernel_streamCollide.xi_102,
    kernel_streamCollide.xi_101_lane_fused s j, lane_sqrt s j, lane_omega_even s j,
    mm256_add_pd_apply, mm256_mul_pd_apply, mm256_div_pd_apply, mm256_sqrt_pd_apply,
    mm256_set_pd_apply, mm256_load_pd_apply, mm256_loadu_pd_add, mm256_loadu_pd_sub] <;>
  ring

theorem kernel_streamCollide.xi_103_lane_fused (s : Site K) (j : Fin 4) :
    kernel_streamCollide.xi_103 s j = FluctuatingMRTLatticeModel.kernel_streamCollide.xi_103 (lane s j) := by
  simp only [
    kernel_streamCollide.xi_103, FluctuatingMRTLatticeModel.kernel_streamCollide.xi_103,
    kernel_streamCollide.random_6_0_lane_fused s j, kernel_streamCollide.xi_102_lane_fused s j,
    mm256_add_pd_apply, mm256_mul_pd_apply, mm256_div_pd_apply, mm256_sqrt_pd_apply,
    mm256_set_pd_apply, mm256_load_pd_apply, mm256_loadu_pd_add, mm256_loadu_pd_sub] <;>
  ring

theorem kernel_streamCollide.xi_104_lane_fused (s : Site K) (j : Fin 4) :
    kernel_streamCollide.xi_104 s j = FluctuatingMRTLatticeModel.kernel_streamCollide.xi_104 (lane s j) := by
  simp only [
    kernel_streamCollide.xi_104, FluctuatingMRTLatticeModel.kernel_streamCollide.xi_104,
    kernel_streamCollide.random_7_0_lane_fused s j, kernel_streamCollide.xi_102_lane_fused s j,
    mm256_add_pd_apply, mm256_mul_pd_apply, mm256_div_pd_apply, mm256_sqrt_pd_apply,
    mm256_set_pd_apply, mm256_load_pd_apply, mm256_loadu_pd_add, mm256_loadu_pd_sub] <;>
  ring

theorem kernel_streamCollide.xi_106_lane_fused (s : Site K) (j : Fin 4) :
    kernel_streamCollide.xi_106 s j = FluctuatingMRTLatticeModel.kernel_streamCollide.xi_106 (lane s j) := by
  simp only [
    kernel_streamCollide.xi_106, FluctuatingMRTLatticeModel.kernel_streamCollide.xi_106,
    kernel_streamCollide.xi_40_lane_fused s j, kernel_streamCollide.xi_105_lane_fused s j,
    kernel_streamCollide.random_2_1_lane_fused s j, kernel_streamCollide.xi_101_lane_fused s j, lane_sqrt s j,
    mm256_add_pd_apply, mm256_mul_pd_apply, mm256_div_pd_apply, mm256_sqrt_pd_apply,
    mm256_set_pd_apply, mm256_load_pd_apply, mm256_loadu_pd_add, mm256_loadu_pd_sub] <;>
  ring

theorem kernel_streamCollide.xi_107_lane_fused (s : Site K) (j : Fin 4) :
    kernel_streamCollide.xi_107 s j = FluctuatingMRTLatticeModel.kernel_streamCollide.xi_107 (lane s j) := by
  simp only [
    kernel_streamCollide.xi_107, FluctuatingMRTLatticeModel.kernel_streamCollide.xi_107,
    kernel_streamCollide.random_6_1_lane_fused s j, kernel_streamCollide.xi_102_lane_fused s j,
    mm256_add_pd_apply, mm256_mul_pd_apply, mm256_div_pd_apply, mm256_sqrt_pd_apply,
    mm256_set_pd_apply, mm256_load_pd_apply, mm256_loadu_pd_add, mm256_loadu_pd_sub] <;>
  ring

theorem kernel_streamCollide.xi_136_lane_fused (s : Site K) (j : Fin 4) :
    kernel_streamCollide.xi_136 s j = FluctuatingMRTLatticeModel.kernel_streamCollide.xi_136 (lane s j) := by
  simp only [
    kernel_streamCollide.xi_136, FluctuatingMRTLatticeModel.kernel_streamCollide.xi_136,
    kernel_streamCollide.xi_101_lane_fused s j, lane_sqrt s j, lane_omega_odd s j,
    mm256_add_pd_apply, mm256_mul_pd_apply, mm256_div_pd_apply, mm256_sqrt_pd_apply,
    mm256_set_pd_apply, mm256_load_pd_apply, mm256_loadu_pd_add, mm256_loadu_pd_sub] <;>
  ring

theorem kernel_streamCollide.xi_137_lane_fused (s : Site K) (j : Fin 4) :
    kernel_streamCollide.xi_137 s j = FluctuatingMRTLatticeModel.kernel_streamCollide.xi_137 (lane s j) := by
  simp only [
    kernel_streamCollide.xi_137, FluctuatingMRTLatticeModel.kernel_streamCollide.xi_137,
    kernel_streamCollide.xi_136_lane_fused s j,
    mm256_add_pd_apply, mm256_mul_pd_apply, mm256_div_pd_apply, mm256_sqrt_pd_apply,
    mm256_set_pd_apply, mm256_load_pd_apply, mm256_loadu_pd_add, mm256_loadu_pd_sub] <;>
  ring

theorem kernel_streamCollide.xi_138_lane_fused (s : Site K) (j : Fin 4) :
    kernel_streamCollide.xi_138 s j = FluctuatingMRTLatticeModel.kernel_streamCollide.xi_138 (lane s j) := by
  simp only [
    kernel_streamCollide.xi_138, FluctuatingMRTLatticeModel.kernel_streamCollide.xi_138,
    kernel_streamCollide.xi_137_lane_fused s j,
    mm256_add_pd_apply, mm256_mul_pd_apply, mm256_div_pd_apply, mm256_sqrt_pd_apply,
    mm256_set_pd_apply, mm256_load_pd_apply, mm256_loadu_pd_add, mm256_loadu_pd_sub] <;>
  ring

theorem kernel_streamCollide.xi_139_lane_fused (s : Site K) (j : Fin 4) :
    kernel_streamCollide.xi_139 s j = FluctuatingMRTLatticeModel.kernel_streamCollide.xi_139 (lane s j) := by
  simp only [
    kernel_streamCollide.xi_139, FluctuatingMRTLatticeModel.kernel_streamCollide.xi_139,
    kernel_streamCollide.xi_135_lane_fused s j, kernel_streamCollide.xi_138_lane_fused s j,
    mm256_add_pd_apply, mm256_mul_pd_apply, mm256_div_pd_apply, mm256_sqrt_pd_apply,
    mm256_set_pd_apply, mm256_load_pd_apply, mm256_loadu_pd_add, mm256_loadu_pd_sub] <;>
  ring

theorem kernel_streamCollide.xi_147_lane_fused (s : Site K) (j : Fin 4) :
    kernel_streamCollide.xi_147 s j = FluctuatingMRTLatticeModel.kernel_streamCollide.xi_147 (lane s j) := by
  simp only [
    kernel_streamCollide.xi_147, FluctuatingMRTLatticeModel.kernel_streamCollide.xi_147,
    kernel_streamCollide.xi_105_lane_fused s j, kernel_streamCollide.xi_136_lane_fused s j,
    mm256_add_pd_apply, mm256_mul_pd_apply, mm256_div_pd_apply, mm256_sqrt_pd_apply,
    mm256_set_pd_apply, mm256_load_pd_apply, mm256_loadu_pd_add, mm256_loadu_pd_sub] <;>
  ring

theorem kernel_streamCollide.xi_148_lane_fused (s : Site K) (j : Fin 4) :
    kernel_streamCollide.xi_148 s j = FluctuatingMRTLatticeModel.kernel_streamCollide.xi_148 (lane s j) := by
  simp only [
    kernel_streamCollide.xi_148, FluctuatingMRTLatticeModel.kernel_streamCollide.xi_148,
    kernel_streamCollide.xi_147_lane_fused s j,
    mm256_add_pd_apply, mm256_mul_pd_apply, mm256_div_pd_apply, mm256_sqrt_pd_apply,
    mm256_set_pd_apply, mm256_load_pd_apply, mm256_loadu_pd_add, mm256_loadu_pd_sub] <;>
  ring

theorem kernel_streamCollide.xi_149_lane_fused (s : Site K) (j : Fin 4) :
    kernel_streamCollide.xi_149 s j = FluctuatingMRTLatticeModel.kernel_streamCollide.xi_149 (lane s j) := by
  simp only [
    kernel_streamCollide.xi_149, FluctuatingMRTLatticeModel.kernel_streamCollide.xi_149,
    kernel_streamCollide.xi_146_lane_fused s j, kernel_streamCollide.xi_148_lane_fused s j,
    mm256_add_pd_apply, mm256_mul_pd_apply, mm256_div_pd_apply, mm256_sqrt_pd_apply,
    mm256_set_pd_apply, mm256_load_pd_apply, mm256_loadu_pd_add, mm256_loadu_pd_sub] <;>
  ring

theorem kernel_streamCollide.xi_150_lane_fused (s : Site K) (j : Fin 4) :
    kernel_streamCollide.xi_150 s j = FluctuatingMRTLatticeModel.kernel_streamCollide.xi_150 (lane s j) := by
  simp only [
    kernel_streamCollide.xi_150, FluctuatingMRTLatticeModel.kernel_streamCollide.xi_150,
    kernel_streamCollide.xi_145_lane_fused s j, kernel_streamCollide.xi_149_lane_fused s j,
    mm256_add_pd_apply, mm256_mul_pd_apply, mm256_div_pd_apply, mm256_sqrt_pd_apply,
    mm256_set_pd_apply, mm256_load_pd_apply, mm256_loadu_pd_add, mm256_loadu_pd_sub] <;>
  ring

theorem kernel_streamCollide.xi_152_lane_fused (s : Site K) (j : Fin 4) :
    kernel_streamCollide.xi_152 s j = FluctuatingMRTLatticeModel.kernel_streamCollide.xi_152 (lane s j) := by
  simp only [
    kernel_streamCollide.xi_152, FluctuatingMRTLatticeModel.kernel_streamCollide.xi_152,
    kernel_streamCollide.xi_51_lane_fused s j, kernel_streamCollide.xi_101_lane_fused s j, lane_sqrt s j,
    mm256_add_pd_apply, mm256_mul_pd_apply, mm256_div_pd_apply, mm256_sqrt_pd_apply,
    mm256_set_pd_apply, mm256_load_pd_apply, mm256_loadu_pd_add, mm256_loadu_pd_sub] <;>
  ring

theorem kernel_streamCollide.xi_153_lane_fused (s : Site K) (j : Fin 4) :
    kernel_streamCollide.xi_153 s j = FluctuatingMRTLatticeModel.kernel_streamCollide.xi_153 (lane s j) := by
  simp only [
    kernel_streamCollide.xi_153, FluctuatingMRTLatticeModel.kernel_streamCollide.xi_153,
    kernel_streamCollide.xi_152_lane_fused s j,
    mm256_add_pd_apply, mm256_mul_pd_apply, mm256_div_pd_apply, mm256_sqrt_pd_apply,
    mm256_set_pd_apply, mm256_load_pd_apply, mm256_loadu_pd_add, mm256_loadu_pd_sub] <;>
  ring

theorem kernel_streamCollide.xi_154_lane_fused (s : Site K) (j : Fin 4) :
    kernel_streamCollide.xi_154 s j = FluctuatingMRTLatticeModel.kernel_streamCollide.xi_154 (lane s j) := by
  simp only [
    kernel_streamCollide.xi_154, FluctuatingMRTLatticeModel.kernel_streamCollide.xi_154,
    kernel_streamCollide.xi_151_lane_fused s j, kernel_streamCollide.xi_153_lane_fused s j,
    mm256_add_pd_apply, mm256_mul_pd_apply, mm256_div_pd_apply, mm256_sqrt_pd_apply,
    mm256_set_pd_apply, mm256_load_pd_apply, mm256_loadu_pd_add, mm256_loadu_pd_sub] <;>
  ring

theorem kernel_streamCollide.xi_158_lane_fused (s : Site K) (j : Fin 4) :
    kernel_streamCollide.xi_158 s j = FluctuatingMRTLatticeModel.kernel_streamCollide.xi_158 (lane s j) := by
  simp only [
    kernel_streamCollide.xi_158, FluctuatingMRTLatticeModel.kernel_streamCollide.xi_158,
    kernel_streamCollide.xi_127_lane_fused s j, kernel_streamCollide.xi_103_lane_fused s j,
    mm256_add_pd_apply, mm256_mul_pd_apply, mm256_div_pd_apply, mm256_sqrt_pd_apply,
    mm256_set_pd_apply, mm256_load_pd_apply, mm256_loadu_pd_add, mm256_loadu_pd_sub] <;>
  ring

theorem kernel_streamCollide.xi_160_lane_fused (s : Site K) (j : Fin 4) :
    kernel_streamCollide.xi_160 s j = FluctuatingMRTLatticeModel.kernel_streamCollide.xi_160 (lane s j) := by
  simp only [
    kernel_streamCollide.xi_160, FluctuatingMRTLatticeModel.kernel_streamCollide.xi_160,
    kernel_streamCollide.random_0_0_lane_fused s j, kernel_streamCollide.xi_152_lane_fused s j,
    mm256_add_pd_apply, mm256_mul_pd_apply, mm256_div_pd_apply, mm256_sqrt_pd_apply,
    mm256_set_pd_apply, mm256_load_pd_apply, mm256_loadu_pd_add, mm256_loadu_pd_sub] <;>
  ring

theorem kernel_streamCollide.xi_164_lane_fused (s : Site K) (j : Fin 4) :
    kernel_streamCollide.xi_164 s j = FluctuatingMRTLatticeModel.kernel_streamCollide.xi_164 (lane s j) := by
  simp only [
    kernel_streamCollide.xi_164, FluctuatingMRTLatticeModel.kernel_streamCollide.xi_164,
    kernel_streamCollide.xi_145_lane_fused s j, kernel_streamCollide.xi_149_lane_fused s j,
    mm256_add_pd_apply, mm256_mul_pd_apply, mm256_div_pd_apply, mm256_sqrt_pd_apply,
    mm256_set_pd_apply, mm256_load_pd_apply, mm256_loadu_pd_add, mm256_loadu_pd_sub] <;>
  ring

theorem kernel_streamCollide.xi_171_lane_fused (s : Site K) (j : Fin 4) :
    kernel_streamCollide.xi_171 s j = FluctuatingMRTLatticeModel.kernel_streamCollide.xi_171 (lane s j) := by
  simp only [
    kernel_streamCollide.xi_171, FluctuatingMRTLatticeModel.kernel_streamCollide.xi_171,
    kernel_streamCollide.xi_170_lane_fused s j, kernel_streamCollide.xi_138_lane_fused s j,
    mm256_add_pd_apply, mm256_mul_pd_apply, mm256_div_pd_apply, mm256_sqrt_pd_apply,
    mm256_set_pd_apply, mm256_load_pd_apply, mm256_loadu_pd_add, mm256_loadu_pd_sub] <;>
  ring

theorem kernel_streamCollide.xi_175_lane_fused (s : Site K) (j : Fin 4) :
    kernel_streamCollide.xi_175 s j = FluctuatingMRTLatticeModel.kernel_streamCollide.xi_175 (lane s j) := by
  simp only [
    kernel_streamCollide.xi_175, FluctuatingMRTLatticeModel.kernel_streamCollide.xi_175,
    kernel_streamCollide.xi_174_lane_fused s j, kernel_streamCollide.xi_148_lane_fused s j,
    mm256_add_pd_apply, mm256_mul_pd_apply, mm256_div_pd_apply, mm256_sqrt_pd_apply,
    mm256_set_pd_apply, mm256_load_pd_apply, mm256_loadu_pd_add, mm256_loadu_pd_sub] <;>
  ring

theorem kernel_streamCollide.xi_176_lane_fused (s : Site K) (j : Fin 4) :
    kernel_streamCollide.xi_176 s j = FluctuatingMRTLatticeModel.kernel_streamCollide.xi_176 (lane s j) := by
  simp only [
    kernel_streamCollide.xi_176, FluctuatingMRTLatticeModel.kernel_streamCollide.xi_176,
    kernel_streamCollide.xi_173_lane_fused s j, kernel_streamCollide.xi_175_lane_fused s j,
    mm256_add_pd_apply, mm256_mul_pd_apply, mm256_div_pd_apply, mm256_sqrt_pd_apply,
    mm256_set_pd_apply, mm256_load_pd_apply, mm256_loadu_pd_add, mm256_loadu_pd_sub] <;>
  ring

theorem kernel_streamCollide.xi_178_lane_fused (s : Site K) (j : Fin 4) :
    kernel_streamCollide.xi_178 s j = FluctuatingMRTLatticeModel.kernel_streamCollide.xi_178 (lane s j) := by
  simp only [
    kernel_streamCollide.xi_178, FluctuatingMRTLatticeModel.kernel_streamCollide.xi_178,
    kernel_streamCollide.xi_173_lane_fused s j, kernel_streamCollide.xi_175_lane_fused s j,
    mm256_add_pd_apply, mm256_mul_pd_apply, mm256_div_pd_apply, mm256_sqrt_pd_apply,
    mm256_set_pd_apply, mm256_load_pd_apply, mm256_loadu_pd_add, mm256_loadu_pd_sub] <;>
  ring

theorem kernel_streamCollide.xi_185_lane_fused (s : Site K) (j : Fin 4) :
    kernel_streamCollide.xi_185 s j = FluctuatingMRTLatticeModel.kernel_streamCollide.xi_185 (lane s j) := by
  simp only [
    kernel_streamCollide.xi_185, FluctuatingMRTLatticeModel.kernel_streamCollide.xi_185,
    kernel_streamCollide.xi_184_lane_fused s j, kernel_streamCollide.xi_138_lane_fused s j,
    mm256_add_pd_apply, mm256_mul_pd_apply, mm256_div_pd_apply, mm256_sqrt_pd_apply,
    mm256_set_pd_apply, mm256_load_pd_apply, mm256_loadu_pd_add, mm256_loadu_pd_sub] <;>
  ring

theorem kernel_streamCollide.xi_189_lane_fused (s : Site K) (j : Fin 4) :
    kernel_streamCollide.xi_189 s j = FluctuatingMRTLatticeModel.kernel_streamCollide.xi_189 (lane s j) := by
  simp only [
    kernel_streamCollide.xi_189, FluctuatingMRTLatticeModel.kernel_streamCollide.xi_189,
    kernel_streamCollide.xi_188_lane_fused s j, kernel_streamCollide.xi_148_lane_fused s j,
    mm256_add_pd_apply, mm256_mul_pd_apply, mm256_div_pd_apply, mm256_sqrt_pd_apply,
    mm256_set_pd_apply, mm256_load_pd_apply, mm256_loadu_pd_add, mm256_loadu_pd_sub] <;>
  ring

theorem kernel_streamCollide.xi_190_lane_fused (s : Site K) (j : Fin 4) :
    kernel_streamCollide.xi_190 s j = FluctuatingMRTLatticeModel.kernel_streamCollide.xi_190 (lane s j) := by
  simp only [
    kernel_streamCollide.xi_190, FluctuatingMRTLatticeModel.kernel_streamCollide.xi_190,
    kernel_streamCollide.xi_187_lane_fused s j, kernel_streamCollide.xi_189_lane_fused s j,
    mm256_add_pd_apply, mm256_mul_pd_apply, mm256_div_pd_apply, mm256_sqrt_pd_apply,
    mm256_set_pd_apply, mm256_load_pd_apply, mm256_loadu_pd_add, mm256_loadu_pd_sub] <;>
  ring

theorem kernel_streamCollide.xi_192_lane_fused (s : Site K) (j : Fin 4) :
    kernel_streamCollide.xi_192 s j = FluctuatingMRTLatticeModel.kernel_streamCollide.xi_192 (lane s j) := by
  simp only [
    kernel_streamCollide.xi_192, FluctuatingMRTLatticeModel.kernel_streamCollide.xi_192,
    kernel_streamCollide.xi_187_lane_fused s j, kernel_streamCollide.xi_189_lane_fused s j,
    mm256_add_pd_apply, mm256_mul_pd_apply, mm256_div_pd_apply, mm256_sqrt_pd_apply,
    mm256_set_pd_apply, mm256_load_pd_apply, mm256_loadu_pd_add, mm256_loadu_pd_sub] <;>
  ring

theorem kernel_streamCollide.xi_193_lane_fused (s : Site K) (j : Fin 4) :
    kernel_streamCollide.xi_193 s j = FluctuatingMRTLatticeModel.kernel_streamCollide.xi_193 (lane s j) := by
  simp only [
    kernel_streamCollide.xi_193, FluctuatingMRTLatticeModel.kernel_streamCollide.xi_193,
    kernel_streamCollide.xi_151_lane_fused s j, kernel_streamCollide.xi_152_lane_fused s j,
    mm256_add_pd_apply, mm256_mul_pd_apply, mm256_div_pd_apply, mm256_sqrt_pd_apply,
    mm256_set_pd_apply, mm256_load_pd_apply, mm256_loadu_pd_add, mm256_loadu_pd_sub] <;>
  ring

theorem kernel_streamCollide.xi_196_lane_fused (s : Site K) (j : Fin 4) :
    kernel_streamCollide.xi_196 s j = FluctuatingMRTLatticeModel.kernel_streamCollide.xi_196 (lane s j) := by
  simp only [
    kernel_streamCollide.xi_196, FluctuatingMRTLatticeModel.kernel_streamCollide.xi_196,
    kernel_streamCollide.xi_103_lane_fused s j,
    mm256_add_pd_apply, mm256_mul_pd_apply, mm256_div_pd_apply, mm256_sqrt_pd_apply,
    mm256_set_pd_apply, mm256_load_pd_apply, mm256_loadu_pd_add, mm256_loadu_pd_sub] <;>
  ring

theorem kernel_streamCollide.xi_206_lane_fused (s : Site K) (j : Fin 4) :
    kernel_streamCollide.xi_206 s j = FluctuatingMRTLatticeModel.kernel_streamCollide.xi_206 (lane s j) := by
  simp only [
    kernel_streamCollide.xi_206, FluctuatingMRTLatticeModel.kernel_streamCollide.xi_206,
    kernel_streamCollide.random_1_0_lane_fused s j, kernel_streamCollide.xi_153_lane_fused s j,
    mm256_add_pd_apply, mm256_mul_pd_apply, mm256_div_pd_apply, mm256_sqrt_pd_apply,
    mm256_set_pd_apply, mm256_load_pd_apply, mm256_loadu_pd_add, mm256_loadu_pd_sub] <;>
  ring

theorem kernel_streamCollide.xi_215_lane_fused (s : Site K) (j : Fin 4) :
    kernel_streamCollide.xi_215 s j = FluctuatingMRTLatticeModel.kernel_streamCollide.xi_215 (lane s j) := by
  simp only [
    kernel_streamCollide.xi_215, FluctuatingMRTLatticeModel.kernel_streamCollide.xi_215,
    kernel_streamCollide.random_2_0_lane_fused s j, kernel_streamCollide.xi_153_lane_fused s j,
    mm256_add_pd_apply, mm256_mul_pd_apply, mm256_div_pd_apply, mm256_sqrt_pd_apply,
    mm256_set_pd_apply, mm256_load_pd_apply, mm256_loadu_pd_add, mm256_loadu_pd_sub] <;>
  ring

theorem kernel_streamCollide.xi_219_lane_fused (s : Site K) (j : Fin 4) :
    kernel_streamCollide.xi_219 s j = FluctuatingMRTLatticeModel.kernel_streamCollide.xi_219 (lane s j) := by
  simp only [
    kernel_streamCollide.xi_219, FluctuatingMRTLatticeModel.kernel_streamCollide.xi_219,
    kernel_streamCollide.xi_107_lane_fused s j,
    mm256_add_pd_apply, mm256_mul_pd_apply, mm256_div_pd_apply, mm256_sqrt_pd_apply,
    mm256_set_pd_apply, mm256_load_pd_apply, mm256_loadu_pd_add, mm256_loadu_pd_sub] <;>
  ring

theorem kernel_streamCollide.xi_220_lane_fused (s : Site K) (j : Fin 4) :
    kernel_streamCollide.xi_220 s j = FluctuatingMRTLatticeModel.kernel_streamCollide.xi_220 (lane s j) := by
  simp only [
    kernel_streamCollide.xi_220, FluctuatingMRTLatticeModel.kernel_streamCollide.xi_220,
    kernel_streamCollide.xi_104_lane_fused s j,
    mm256_add_pd_apply, mm256_mul_pd_apply, mm256_div_pd_apply, mm256_sqrt_pd_apply,
    mm256_set_pd_apply, mm256_load_pd_apply, mm256_loadu_pd_add, mm256_loadu_pd_sub] <;>
  ring

theorem kernel_streamCollide.xi_226_lane_fused (s : Site K) (j : Fin 4) :
    kernel_streamCollide.xi_226 s j = FluctuatingMRTLatticeModel.kernel_streamCollide.xi_226 (lane s j) := by
  simp only [
    kernel_streamCollide.xi_226, FluctuatingMRTLatticeModel.kernel_streamCollide.xi_226,
    kernel_streamCollide.xi_147_lane_fused s j,
    mm256_add_pd_apply, mm256_mul_pd_apply, mm256_div_pd_apply, mm256_sqrt_pd_apply,
    mm256_set_pd_apply, mm256_load_pd_apply, mm256_loadu_pd_add, mm256_loadu_pd_sub] <;>
  ring

theorem kernel_streamCollide.xi_227_lane_fused (s : Site K) (j : Fin 4) :
    kernel_streamCollide.xi_227 s j = FluctuatingMRTLatticeModel.kernel_streamCollide.xi_227 (lane s j) := by
  simp only [
    kernel_streamCollide.xi_227, FluctuatingMRTLatticeModel.kernel_streamCollide.xi_227,
    kernel_streamCollide.xi_188_lane_fused s j, kernel_streamCollide.xi_226_lane_fused s j,
    mm256_add_pd_apply, mm256_mul_pd_apply, mm256_div_pd_apply, mm256_sqrt_pd_apply,
    mm256_set_pd_apply, mm256_load_pd_apply, mm256_loadu_pd_add, mm256_loadu_pd_sub] <;>
  ring

theorem kernel_streamCollide.xi_228_lane_fused (s : Site K) (j : Fin 4) :
    kernel_streamCollide.xi_228 s j = FluctuatingMRTLatticeModel.kernel_streamCollide.xi_228 (lane s j) := by
  simp only [
    kernel_streamCollide.xi_228, FluctuatingMRTLatticeModel.kernel_streamCollide.xi_228,
    kernel_streamCollide.xi_137_lane_fused s j,
    mm256_add_pd_apply, mm256_mul_pd_apply, mm256_div_pd_apply, mm256_sqrt_pd_apply,
    mm256_set_pd_apply, mm256_load_pd_apply, mm256_loadu_pd_add, mm256_loadu_pd_sub] <;>
  ring

theorem kernel_streamCollide.xi_229_lane_fused (s : Site K) (j : Fin 4) :
    kernel_streamCollide.xi_229 s j = FluctuatingMRTLatticeModel.kernel_streamCollide.xi_229 (lane s j) := by
  simp only [
    kernel_streamCollide.xi_229, FluctuatingMRTLatticeModel.kernel_streamCollide.xi_229,
    kernel_streamCollide.xi_184_lane_fused s j, kernel_streamCollide.xi_228_lane_fused s j,
    mm256_add_pd_apply, mm256_mul_pd_apply, mm256_div_pd_apply, mm256_sqrt_pd_apply,
    mm256_set_pd_apply, mm256_load_pd_apply, mm256_loadu_pd_add, mm256_loadu_pd_sub] <;>
  ring

theorem kernel_streamCollide.xi_231_lane_fused (s : Site K) (j : Fin 4) :
    kernel_streamCollide.xi_231 s j = FluctuatingMRTLatticeModel.kernel_streamCollide.xi_231 (lane s j) := by
  simp only [
    kernel_streamCollide.xi_231, FluctuatingMRTLatticeModel.kernel_streamCollide.xi_231,
    kernel_streamCollide.xi_127_lane_fused s j, kernel_streamCollide.xi_103_lane_fused s j,
    mm256_add_pd_apply, mm256_mul_pd_apply, mm256_div_pd_apply, mm256_sqrt_pd_apply,
    mm256_set_pd_apply, mm256_load_pd_apply, mm256_loadu_pd_add, mm256_loadu_pd_sub] <;>
  ring

theorem kernel_streamCollide.xi_236_lane_fused (s : Site K) (j : Fin 4) :
    kernel_streamCollide.xi_236 s j = FluctuatingMRTLatticeModel.kernel_streamCollide.xi_236 (lane s j) := by
  simp only [
    kernel_streamCollide.xi_236, FluctuatingMRTLatticeModel.kernel_streamCollide.xi_236,
    kernel_streamCollide.xi_146_lane_fused s j, kernel_streamCollide.xi_226_lane_fused s j,
    mm256_add_pd_apply, mm256_mul_pd_apply, mm256_div_pd_apply, mm256_sqrt_pd_apply,
    mm256_set_pd_apply, mm256_load_pd_apply, mm256_loadu_pd_add, mm256_loadu_pd_sub] <;>
  ring

theorem kernel_streamCollide.xi_237_lane_fused (s : Site K) (j : Fin 4) :
    kernel_streamCollide.xi_237 s j = FluctuatingMRTLatticeModel.kernel_streamCollide.xi_237 (lane s j) := by
  simp only [
    kernel_streamCollide.xi_237, FluctuatingMRTLatticeModel.kernel_streamCollide.xi_237,
    kernel_streamCollide.xi_135_lane_fused s j, kernel_streamCollide.xi_228_lane_fused s j,
    mm256_add_pd_apply, mm256_mul_pd_apply, mm256_div_pd_apply, mm256_sqrt_pd_apply,
    mm256_set_pd_apply, mm256_load_pd_apply, mm256_loadu_pd_add, mm256_loadu_pd_sub] <;>
  ring

theorem kernel_streamCollide.xi_241_lane_fused (s : Site K) (j : Fin 4) :
    kernel_streamCollide.xi_241 s j = FluctuatingMRTLatticeModel.kernel_streamCollide.xi_241 (lane s j) := by
  simp only [
    kernel_streamCollide.xi_241, FluctuatingMRTLatticeModel.kernel_streamCollide.xi_241,
    kernel_streamCollide.xi_193_lane_fused s j,
    mm256_add_pd_apply, mm256_mul_pd_apply, mm256_div_pd_apply, mm256_sqrt_pd_apply,
    mm256_set_pd_apply, mm256_load_pd_apply, mm256_loadu_pd_add, mm256_loadu_pd_sub] <;>
  ring

theorem kernel_streamCollide.xi_244_lane_fused (s : Site K) (j : Fin 4) :
    kernel_streamCollide.xi_244 s j = FluctuatingMRTLatticeModel.kernel_streamCollide.xi_244 (lane s j) := by
  simp only [
    kernel_streamCollide.xi_244, FluctuatingMRTLatticeModel.kernel_streamCollide.xi_244,
    kernel_streamCollide.xi_107_lane_fused s j,
    mm256_add_pd_apply, mm256_mul_pd_apply, mm256_div_pd_apply, mm256_sqrt_pd_apply,
    mm256_set_pd_apply, mm256_load_pd_apply, mm256_loadu_pd_add, mm256_loadu_pd_sub] <;>
  ring

theorem kernel_streamCollide.xi_246_lane_fused (s : Site K) (j : Fin 4) :
    kernel_streamCollide.xi_246 s j = FluctuatingMRTLatticeModel.kernel_streamCollide.xi_246 (lane s j) := by
  simp only [
    kernel_streamCollide.xi_246, FluctuatingMRTLatticeModel.kernel_streamCollide.xi_246,
    kernel_streamCollide.random_1_1_lane_fused s j, kernel_streamCollide.xi_153_lane_fused s j,
    mm256_add_pd_apply, mm256_mul_pd_apply, mm256_div_pd_apply, mm256_sqrt_pd_apply,
    mm256_set_pd_apply, mm256_load_pd_apply, mm256_loadu_pd_add, mm256_loadu_pd_sub] <;>
  ring

theorem kernel_streamCollide.xi_251_lane_fused (s : Site K) (j : Fin 4) :
    kernel_streamCollide.xi_251 s j = FluctuatingMRTLatticeModel.kernel_streamCollide.xi_251 (lane s j) := by
  simp only [
    kernel_streamCollide.xi_251, FluctuatingMRTLatticeModel.kernel_streamCollide.xi_251,
    kernel_streamCollide.xi_170_lane_fused s j, kernel_streamCollide.xi_228_lane_fused s j,
    mm256_add_pd_apply, mm256_mul_pd_apply, mm256_div_pd_apply, mm256_sqrt_pd_apply,
    mm256_set_pd_apply, mm256_load_pd_apply, mm256_loadu_pd_add, mm256_loadu_pd_sub] <;>
  ring

theorem kernel_streamCollide.xi_252_lane_fused (s : Site K) (j : Fin 4) :
    kernel_streamCollide.xi_252 s j = FluctuatingMRTLatticeModel.kernel_streamCollide.xi_252 (lane s j) := by
  simp only [
    kernel_streamCollide.xi_252, FluctuatingMRTLatticeModel.kernel_streamCollide.xi_252,
    kernel_streamCollide.xi_174_lane_fused s j, kernel_streamCollide.xi_226_lane_fused s j,
    mm256_add_pd_apply, mm256_mul_pd_apply, mm256_div_pd_apply, mm256_sqrt_pd_apply,
    mm256_set_pd_apply, mm256_load_pd_apply, mm256_loadu_pd_add, mm256_loadu_pd_sub] <;>
  ring

theorem kernel_streamCollide.u_0_lane_fused (s : Site K) (j : Fin 4) :
    kernel_streamCollide.u_0 s j = FluctuatingMRTLatticeModel.kernel_streamCollide.u_0 (lane s j) := by
  simp only [
    kernel_streamCollide.u_0, FluctuatingMRTLatticeModel.kernel_streamCollide.u_0,
    kernel_streamCollide.xi_14_lane_fused s j, kernel_streamCollide.xi_19_lane_fused s j,
    kernel_streamCollide.vel0Term_lane_fused s j, kernel_streamCollide.xi_11_lane_fused s j,
    mm256_add_pd_apply, mm256_mul_pd_apply, mm256_div_pd_apply, mm256_sqrt_pd_apply,
    mm256_set_pd_apply, mm256_load_pd_apply, mm256_loadu_pd_add, mm256_loadu_pd_sub] <;>
  ring

theorem kernel_streamCollide.xi_41_lane_fused (s : Site K) (j : Fin 4) :
    kernel_streamCollide.xi_41 s j = FluctuatingMRTLatticeModel.kernel_streamCollide.xi_41 (lane s j) := by
  simp only [
    kernel_streamCollide.xi_41, FluctuatingMRTLatticeModel.kernel_streamCollide.xi_41,
    kernel_streamCollide.u_0_lane_fused s j, lane__data_force s j, lane_ctr_0 s j, lane_ctr_1 s j,
    lane_ctr_2 s j,
    mm256_add_pd_apply, mm256_mul_pd_apply, mm256_div_pd_apply, mm256_sqrt_pd_apply,
    mm256_set_pd_apply, mm256_load_pd_apply, mm256_loadu_pd_add, mm256_loadu_pd_sub] <;>
  ring

theorem kernel_streamCollide.xi_42_lane_fused (s : Site K) (j : Fin 4) :
    kernel_streamCollide.xi_42 s j = FluctuatingMRTLatticeModel.kernel_streamCollide.xi_42 (lane s j) := by
  simp only [
    kernel_streamCollide.xi_42, FluctuatingMRTLatticeModel.kernel_streamCollide.xi_42,
    kernel_streamCollide.xi_41_lane_fused s j,
    mm256_add_pd_apply, mm256_mul_pd_apply, mm256_div_pd_apply, mm256_sqrt_pd_apply,
    mm256_set_pd_apply, mm256_load_pd_apply, mm256_loadu_pd_add, mm256_loadu_pd_sub] <;>
  ring

theorem kernel_streamCollide.xi_48_lane_fused (s : Site K) (j : Fin 4) :
    kernel_streamCollide.xi_48 s j = FluctuatingMRTLatticeModel.kernel_streamCollide.xi_48 (lane s j) := by
  simp only [
    kernel_streamCollide.xi_48, FluctuatingMRTLatticeModel.kernel_streamCollide.xi_48,
    kernel_streamCollide.xi_42_lane_fused s j,
    mm256_add_pd_apply, mm256_mul_pd_apply, mm256_div_pd_apply, mm256_sqrt_pd_apply,
    mm256_set_pd_apply, mm256_load_pd_apply, mm256_loadu_pd_add, mm256_loadu_pd_sub] <;>
  ring

theorem kernel_streamCollide.xi_114_lane_fused (s : Site K) (j : Fin 4) :
    kernel_streamCollide.xi_114 s j = FluctuatingMRTLatticeModel.kernel_streamCollide.xi_114 (lane s j) := by
  simp only [
    kernel_streamCollide.xi_114, FluctuatingMRTLatticeModel.kernel_streamCollide.xi_114,
    kernel_streamCollide.rho_lane_fused s j, kernel_streamCollide.u_0_lane_fused s j,
    mm256_add_pd_apply, mm256_mul_pd_apply, mm256_div_pd_apply, mm256_sqrt_pd_apply,
    mm256_set_pd_apply, mm256_load_pd_apply, mm256_loadu_pd_add, mm256_loadu_pd_sub] <;>
  ring

theorem kernel_streamCollide.xi_165_lane_fused (s : Site K) (j : Fin 4) :
    kernel_streamCollide.xi_165 s j = FluctuatingMRTLatticeModel.kernel_streamCollide.xi_165 (lane s j) := by
  simp only [
    kernel_streamCollide.xi_165, FluctuatingMRTLatticeModel.kernel_streamCollide.xi_165,
    kernel_streamCollide.rho_lane_fused s j, kernel_streamCollide.u_0_lane_fused s j,
    mm256_add_pd_apply, mm256_mul_pd_apply, mm256_div_pd_apply, mm256_sqrt_pd_apply,
    mm256_set_pd_apply, mm256_load_pd_apply, mm256_loadu_pd_add, mm256_loadu_pd_sub] <;>
  ring

theorem kernel_streamCollide.xi_166_lane_fused (s : Site K) (j : Fin 4) :
    kernel_streamCollide.xi_166 s j = FluctuatingMRTLatticeModel.kernel_streamCollide.xi_166 (lane s j) := by
  simp only [
    kernel_streamCollide.xi_166, FluctuatingMRTLatticeModel.kernel_streamCollide.xi_166,
    kernel_streamCollide.xi_32_lane_fused s j, kernel_streamCollide.vel0Term_lane_fused s j,
    kernel_streamCollide.xi_165_lane_fused s j,
    mm256_add_pd_apply, mm256_mul_pd_apply, mm256_div_pd_apply, mm256_sqrt_pd_apply,
    mm256_set_pd_apply, mm256_load_pd_apply, mm256_loadu_pd_add, mm256_loadu_pd_sub] <;>
  ring

theorem kernel_streamCollide.xi_167_lane_fused (s : Site K) (j : Fin 4) :
    kernel_streamCollide.xi_167 s j = FluctuatingMRTLatticeModel.kernel_streamCollide.xi_167 (lane s j) := by
  simp only [
    kernel_streamCollide.xi_167, FluctuatingMRTLatticeModel.kernel_streamCollide.xi_167,
    kernel_streamCollide.xi_133_lane_fused s j, kernel_streamCollide.xi_166_lane_fused s j,
    mm256_add_pd_apply, mm256_mul_pd_apply, mm256_div_pd_apply, mm256_sqrt_pd_apply,
    mm256_set_pd_apply, mm256_load_pd_apply, mm256_loadu_pd_add, mm256_loadu_pd_sub] <;>
  ring

theorem kernel_streamCollide.xi_202_lane_fused (s : Site K) (j : Fin 4) :
    kernel_streamCollide.xi_202 s j = FluctuatingMRTLatticeModel.kernel_streamCollide.xi_202 (lane s j) := by
  simp only [
    kernel_streamCollide.xi_202, FluctuatingMRTLatticeModel.kernel_streamCollide.xi_202,
    kernel_streamCollide.xi_197_lane_fused s j, kernel_streamCollide.xi_166_lane_fused s j,
    mm256_add_pd_apply, mm256_mul_pd_apply, mm256_div_pd_apply, mm256_sqrt_pd_apply,
    mm256_set_pd_apply, mm256_load_pd_apply, mm256_loadu_pd_add, mm256_loadu_pd_sub] <;>
  ring

theorem kernel_streamCollide.u_1_lane_fused (s : Site K) (j : Fin 4) :
    kernel_streamCollide.u_1 s j = FluctuatingMRTLatticeModel.kernel_streamCollide.u_1 (lane s j) := by
  simp only [
    kernel_streamCollide.u_1, FluctuatingMRTLatticeModel.kernel_streamCollide.u_1,
    kernel_streamCollide.xi_17_lane_fused s j, kernel_streamCollide.xi_21_lane_fused s j,
    kernel_streamCollide.xi_25_lane_fused s j, kernel_streamCollide.vel1Term_lane_fused s j,
    kernel_streamCollide.xi_11_lane_fused s j,
    mm256_add_pd_apply, mm256_mul_pd_apply, mm256_div_pd_apply, mm256_sqrt_pd_apply,
    mm256_set_pd_apply, mm256_load_pd_apply, mm256_loadu_pd_add, mm256_loadu_pd_sub] <;>
  ring

theorem kernel_streamCollide.xi_43_lane_fused (s : Site K) (j : Fin 4) :
    kernel_streamCollide.xi_43 s j = FluctuatingMRTLatticeModel.kernel_streamCollide.xi_43 (lane s j) := by
  simp only [
    kernel_streamCollide.xi_43, FluctuatingMRTLatticeModel.kernel_streamCollide.xi_43,
    kernel_streamCollide.u_1_lane_fused s j, lane__data_force s j, lane_ctr_0 s j, lane_ctr_1 s j,
    lane_ctr_2 s j,
    mm256_add_pd_apply, mm256_mul_pd_apply, mm256_div_pd_apply, mm256_sqrt_pd_apply,
    mm256_set_pd_apply, mm256_load_pd_apply, mm256_loadu_pd_add, mm256_loadu_pd_sub] <;>
  ring

theorem kernel_streamCollide.xi_44_lane_fused (s : Site K) (j : Fin 4) :
    kernel_streamCollide.xi_44 s j = FluctuatingMRTLatticeModel.kernel_streamCollide.xi_44 (lane s j) := by
  simp only [
    kernel_streamCollide.xi_44, FluctuatingMRTLatticeModel.kernel_streamCollide.xi_44,
    kernel_streamCollide.xi_43_lane_fused s j,
    mm256_add_pd_apply, mm256_mul_pd_apply, mm256_div_pd_apply, mm256_sqrt_pd_apply,
    mm256_set_pd_apply, mm256_load_pd_apply, mm256_loadu_pd_add, mm256_loadu_pd_sub] <;>
  ring

theorem kernel_streamCollide.xi_49_lane_fused (s : Site K) (j : Fin 4) :
    kernel_streamCollide.xi_49 s j = FluctuatingMRTLatticeModel.kernel_streamCollide.xi_49 (lane s j) := by
  simp only [
    kernel_streamCollide.xi_49, FluctuatingMRTLatticeModel.kernel_streamCollide.xi_49,
    kernel_streamCollide.xi_44_lane_fused s j,
    mm256_add_pd_apply, mm256_mul_pd_apply, mm256_div_pd_apply, mm256_sqrt_pd_apply,
    mm256_set_pd_apply, mm256_load_pd_apply, mm256_loadu_pd_add, mm256_loadu_pd_sub] <;>
  ring

theorem kernel_streamCollide.xi_71_lane_fused (s : Site K) (j : Fin 4) :
    kernel_streamCollide.xi_71 s j = FluctuatingMRTLatticeModel.kernel_streamCollide.xi_71 (lane s j) := by
  simp only [
    kernel_streamCollide.xi_71, FluctuatingMRTLatticeModel.kernel_streamCollide.xi_71,
    kernel_streamCollide.u_1_lane_fused s j,
    mm256_add_pd_apply, mm256_mul_pd_apply, mm256_div_pd_apply, mm256_sqrt_pd_apply,
    mm256_set_pd_apply, mm256_load_pd_apply, mm256_loadu_pd_add, mm256_loadu_pd_sub] <;>
  ring

theorem kernel_streamCollide.xi_74_lane_fused (s : Site K) (j : Fin 4) :
    kernel_streamCollide.xi_74 s j = FluctuatingMRTLatticeModel.kernel_streamCollide.xi_74 (lane s j) := by
  simp only [
    kernel_streamCollide.xi_74, FluctuatingMRTLatticeModel.kernel_streamCollide.xi_74,
    kernel_streamCollide.xi_73_lane_fused s j, kernel_streamCollide.xi_72_lane_fused s j,
    kernel_streamCollide.u_0_lane_fused s j, kernel_streamCollide.xi_71_lane_fused s j, lane__data_force s j,
    lane_ctr_0 s j, lane_ctr_1 s j, lane_ctr_2 s j,
    mm256_add_pd_apply, mm256_mul_pd_apply, mm256_div_pd_apply, mm256_sqrt_pd_apply,
    mm256_set_pd_apply, mm256_load_pd_apply, mm256_loadu_pd_add, mm256_loadu_pd_sub] <;>
  ring

theorem kernel_streamCollide.xi_75_lane_fused (s : Site K) (j : Fin 4) :
    kernel_streamCollide.xi_75 s j = FluctuatingMRTLatticeModel.kernel_streamCollide.xi_75 (lane s j) := by
  simp only [
    kernel_streamCollide.xi_75, FluctuatingMRTLatticeModel.kernel_streamCollide.xi_75,
    kernel_streamCollide.xi_74_lane_fused s j,
    mm256_add_pd_apply, mm256_mul_pd_apply, mm256_div_pd_apply, mm256_sqrt_pd_apply,
    mm256_set_pd_apply, mm256_load_pd_apply, mm256_loadu_pd_add, mm256_loadu_pd_sub] <;>
  ring

theorem kernel_streamCollide.xi_119_lane_fused (s : Site K) (j : Fin 4) :
    kernel_streamCollide.xi_119 s j = FluctuatingMRTLatticeModel.kernel_streamCollide.xi_119 (lane s j) := by
  simp only [
    kernel_streamCollide.xi_119, FluctuatingMRTLatticeModel.kernel_streamCollide.xi_119,
    kernel_streamCollide.rho_lane_fused s j, kernel_streamCollide.u_1_lane_fused s j,
    mm256_add_pd_apply, mm256_mul_pd_apply, mm256_div_pd_apply, mm256_sqrt_pd_apply,
    mm256_set_pd_apply, mm256_load_pd_apply, mm256_loadu_pd_add, mm256_loadu_pd_sub] <;>
  ring

theorem kernel_streamCollide.xi_120_lane_fused (s : Site K) (j : Fin 4) :
    kernel_streamCollide.xi_120 s j = FluctuatingMRTLatticeModel.kernel_streamCollide.xi_120 (lane s j) := by
  simp only [
    kernel_streamCollide.xi_120, FluctuatingMRTLatticeModel.kernel_streamCollide.xi_120,
    kernel_streamCollide.xi_20_lane_fused s j, kernel_streamCollide.xi_118_lane_fused s j,
    kernel_streamCollide.xi_119_lane_fused s j,
    mm256_add_pd_apply, mm256_mul_pd_apply, mm256_div_pd_apply, mm256_sqrt_pd_apply,
    mm256_set_pd_apply, mm256_load_pd_apply, mm256_loadu_pd_add, mm256_loadu_pd_sub] <;>
  ring

theorem kernel_streamCollide.xi_131_lane_fused (s : Site K) (j : Fin 4) :
    kernel_streamCollide.xi_131 s j = FluctuatingMRTLatticeModel.kernel_streamCollide.xi_131 (lane s j) := by
  simp only [
    kernel_streamCollide.xi_131, FluctuatingMRTLatticeModel.kernel_streamCollide.xi_131,
    kernel_streamCollide.rho_lane_fused s j, kernel_streamCollide.u_1_lane_fused s j,
    mm256_add_pd_apply, mm256_mul_pd_apply, mm256_div_pd_apply, mm256_sqrt_pd_apply,
    mm256_set_pd_apply, mm256_load_pd_apply, mm256_loadu_pd_add, mm256_loadu_pd_sub] <;>
  ring

theorem kernel_streamCollide.xi_132_lane_fused (s : Site K) (j : Fin 4) :
    kernel_streamCollide.xi_132 s j = FluctuatingMRTLatticeModel.kernel_streamCollide.xi_132 (lane s j) := by
  simp only [
    kernel_streamCollide.xi_132, FluctuatingMRTLatticeModel.kernel_streamCollide.xi_132,
    kernel_streamCollide.xi_37_lane_fused s j, kernel_streamCollide.xi_118_lane_fused s j,
    kernel_streamCollide.vel1Term_lane_fused s j, kernel_streamCollide.xi_131_lane_fused s j, lane__data_pdfs
    s j, lane_ctr_0 s j, lane_ctr_1 s j, lane_ctr_2 s j,
    mm256_add_pd_apply, mm256_mul_pd_apply, mm256_div_pd_apply, mm256_sqrt_pd_apply,
    mm256_set_pd_apply, mm256_load_pd_apply, mm256_loadu_pd_add, mm256_loadu_pd_sub] <;>
  ring

theorem kernel_streamCollide.xi_134_lane_fused (s : Site K) (j : Fin 4) :
    kernel_streamCollide.xi_134 s j = FluctuatingMRTLatticeModel.kernel_streamCollide.xi_134 (lane s j) := by
  simp only [
    kernel_streamCollide.xi_134, FluctuatingMRTLatticeModel.kernel_streamCollide.xi_134,
    kernel_streamCollide.xi_133_lane_fused s j, kernel_streamCollide.xi_132_lane_fused s j,
    mm256_add_pd_apply, mm256_mul_pd_apply, mm256_div_pd_apply, mm256_sqrt_pd_apply,
    mm256_set_pd_apply, mm256_load_pd_apply, mm256_loadu_pd_add, mm256_loadu_pd_sub] <;>
  ring

theorem kernel_streamCollide.xi_198_lane_fused (s : Site K) (j : Fin 4) :
    kernel_streamCollide.xi_198 s j = FluctuatingMRTLatticeModel.kernel_streamCollide.xi_198 (lane s j) := by
  simp only [
    kernel_streamCollide.xi_198, FluctuatingMRTLatticeModel.kernel_streamCollide.xi_198,
    kernel_streamCollide.xi_197_lane_fused s j, kernel_streamCollide.xi_132_lane_fused s j,
    mm256_add_pd_apply, mm256_mul_pd_apply, mm256_div_pd_apply, mm256_sqrt_pd_apply,
    mm256_set_pd_apply, mm256_load_pd_apply, mm256_loadu_pd_add, mm256_loadu_pd_sub] <;>
  ring

theorem kernel_streamCollide.u_2_lane_fused (s : Site K) (j : Fin 4) :
    kernel_streamCollide.u_2 s j = FluctuatingMRTLatticeModel.kernel_streamCollide.u_2 (lane s j) := by
  simp only [
    kernel_streamCollide.u_2, FluctuatingMRTLatticeModel.kernel_streamCollide.u_2,
    kernel_streamCollide.xi_27_lane_fused s j, kernel_streamCollide.xi_30_lane_fused s j,
    kernel_streamCollide.vel2Term_lane_fused s j, kernel_streamCollide.xi_11_lane_fused s j, lane__data_pdfs s
    j, lane_ctr_0 s j, lane_ctr_1 s j, lane_ctr_2 s j,
    mm256_add_pd_apply, mm256_mul_pd_apply, mm256_div_pd_apply, mm256_sqrt_pd_apply,
    mm256_set_pd_apply, mm256_load_pd_apply, mm256_loadu_pd_add, mm256_loadu_pd_sub] <;>
  ring

theorem kernel_streamCollide.xi_45_lane_fused (s : Site K) (j : Fin 4) :
    kernel_streamCollide.xi_45 s j = FluctuatingMRTLatticeModel.kernel_streamCollide.xi_45 (lane s j) := by
  simp only [
    kernel_streamCollide.xi_45, FluctuatingMRTLatticeModel.kernel_streamCollide.xi_45,
    kernel_streamCollide.u_2_lane_fused s j, lane__data_force s j, lane_ctr_0 s j, lane_ctr_1 s j,
    lane_ctr_2 s j,
    mm256_add_pd_apply, mm256_mul_pd_apply, mm256_div_pd_apply, mm256_sqrt_pd_apply,
    mm256_set_pd_apply, mm256_load_pd_apply, mm256_loadu_pd_add, mm256_loadu_pd_sub] <;>
  ring

theorem kernel_streamCollide.xi_46_lane_fused (s : Site K) (j : Fin 4) :
    kernel_streamCollide.xi_46 s j = FluctuatingMRTLatticeModel.kernel_streamCollide.xi_46 (lane s j) := by
  simp only [
    kernel_streamCollide.xi_46, FluctuatingMRTLatticeModel.kernel_streamCollide.xi_46,
    kernel_streamCollide.xi_45_lane_fused s j,
    mm256_add_pd_apply, mm256_mul_pd_apply, mm256_div_pd_apply, mm256_sqrt_pd_apply,
    mm256_set_pd_apply, mm256_load_pd_apply, mm256_loadu_pd_add, mm256_loadu_pd_sub] <;>
  ring

theorem kernel_streamCollide.xi_47_lane_fused (s : Site K) (j : Fin 4) :
    kernel_streamCollide.xi_47 s j = FluctuatingMRTLatticeModel.kernel_streamCollide.xi_47 (lane s j) := by
  simp only [
    kernel_streamCollide.xi_47, FluctuatingMRTLatticeModel.kernel_streamCollide.xi_47,
    kernel_streamCollide.xi_40_lane_fused s j, kernel_streamCollide.xi_42_lane_fused s j,
    kernel_streamCollide.xi_44_lane_fused s j, kernel_streamCollide.xi_46_lane_fused s j,
    mm256_add_pd_apply, mm256_mul_pd_apply, mm256_div_pd_apply, mm256_sqrt_pd_apply,
    mm256_set_pd_apply, mm256_load_pd_apply, mm256_loadu_pd_add, mm256_loadu_pd_sub] <;>
  ring

theorem kernel_streamCollide.xi_50_lane_fused (s : Site K) (j : Fin 4) :
    kernel_streamCollide.xi_50 s j = FluctuatingMRTLatticeModel.kernel_streamCollide.xi_50 (lane s j) := by
  simp only [
    kernel_streamCollide.xi_50, FluctuatingMRTLatticeModel.kernel_streamCollide.xi_50,
    kernel_streamCollide.xi_48_lane_fused s j, kernel_streamCollide.xi_49_lane_fused s j,
    kernel_streamCollide.xi_45_lane_fused s j,
    mm256_add_pd_apply, mm256_mul_pd_apply, mm256_div_pd_apply, mm256_sqrt_pd_apply,
    mm256_set_pd_apply, mm256_load_pd_apply, mm256_loadu_pd_add, mm256_loadu_pd_sub] <;>
  ring

theorem kernel_streamCollide.xi_54_lane_fused (s : Site K) (j : Fin 4) :
    kernel_streamCollide.xi_54 s j = FluctuatingMRTLatticeModel.kernel_streamCollide.xi_54 (lane s j) := by
  simp only [
    kernel_streamCollide.xi_54, FluctuatingMRTLatticeModel.kernel_streamCollide.xi_54,
    kernel_streamCollide.xi_46_lane_fused s j,
    mm256_add_pd_apply, mm256_mul_pd_apply, mm256_div_pd_apply, mm256_sqrt_pd_apply,
    mm256_set_pd_apply, mm256_load_pd_apply, mm256_loadu_pd_add, mm256_loadu_pd_sub] <;>
  ring

theorem kernel_streamCollide.xi_55_lane_fused (s : Site K) (j : Fin 4) :
    kernel_streamCollide.xi_55 s j = FluctuatingMRTLatticeModel.kernel_streamCollide.xi_55 (lane s j) := by
  simp only [
    kernel_streamCollide.xi_55, FluctuatingMRTLatticeModel.kernel_streamCollide.xi_55,
    kernel_streamCollide.xi_48_lane_fused s j, kernel_streamCollide.xi_43_lane_fused s j,
    kernel_streamCollide.xi_54_lane_fused s j,
    mm256_add_pd_apply, mm256_mul_pd_apply, mm256_div_pd_apply, mm256_sqrt_pd_apply,
    mm256_set_pd_apply, mm256_load_pd_apply, mm256_loadu_pd_add, mm256_loadu_pd_sub] <;>
  ring

theorem kernel_streamCollide.xi_56_lane_fused (s : Site K) (j : Fin 4) :
    kernel_streamCollide.xi_56 s j = FluctuatingMRTLatticeModel.kernel_streamCollide.xi_56 (lane s j) := by
  simp only [
    kernel_streamCollide.xi_56, FluctuatingMRTLatticeModel.kernel_streamCollide.xi_56,
    kernel_streamCollide.xi_41_lane_fused s j, kernel_streamCollide.xi_49_lane_fused s j,
    kernel_streamCollide.xi_54_lane_fused s j,
    mm256_add_pd_apply, mm256_mul_pd_apply, mm256_div_pd_apply, mm256_sqrt_pd_apply,
    mm256_set_pd_apply, mm256_load_pd_apply, mm256_loadu_pd_add, mm256_loadu_pd_sub] <;>
  ring

theorem kernel_streamCollide.xi_59_lane_fused (s : Site K) (j : Fin 4) :
    kernel_streamCollide.xi_59 s j = FluctuatingMRTLatticeModel.kernel_streamCollide.xi_59 (lane s j) := by
  simp only [
    kernel_streamCollide.xi_59, FluctuatingMRTLatticeModel.kernel_streamCollide.xi_59,
    kernel_streamCollide.xi_58_lane_fused s j, kernel_streamCollide.xi_50_lane_fused s j,
    mm256_add_pd_apply, mm256_mul_pd_apply, mm256_div_pd_apply, mm256_sqrt_pd_apply,
    mm256_set_pd_apply, mm256_load_pd_apply, mm256_loadu_pd_add, mm256_loadu_pd_sub] <;>
  ring

theorem kernel_streamCollide.xi_60_lane_fused (s : Site K) (j : Fin 4) :
    kernel_streamCollide.xi_60 s j = FluctuatingMRTLatticeModel.kernel_streamCollide.xi_60 (lane s j) := by
  simp only [
    kernel_streamCollide.xi_60, FluctuatingMRTLatticeModel.kernel_streamCollide.xi_60,
    kernel_streamCollide.xi_59_lane_fused s j,
    mm256_add_pd_apply, mm256_mul_pd_apply, mm256_div_pd_apply, mm256_sqrt_pd_apply,
    mm256_set_pd_apply, mm256_load_pd_apply, mm256_loadu_pd_add, mm256_loadu_pd_sub] <;>
  ring

theorem kernel_streamCollide.xi_61_lane_fused (s : Site K) (j : Fin 4) :
    kernel_streamCollide.xi_61 s j = FluctuatingMRTLatticeModel.kernel_streamCollide.xi_61 (lane s j) := by
  simp only [
    kernel_streamCollide.xi_61, FluctuatingMRTLatticeModel.kernel_streamCollide.xi_61,
    kernel_streamCollide.xi_58_lane_fused s j, kernel_streamCollide.xi_56_lane_fused s j,
    mm256_add_pd_apply, mm256_mul_pd_apply, mm256_div_pd_apply, mm256_sqrt_pd_apply,
    mm256_set_pd_apply, mm256_load_pd_apply, mm256_loadu_pd_add, mm256_loadu_pd_sub] <;>
  ring

theorem kernel_streamCollide.xi_62_lane_fused (s : Site K) (j : Fin 4) :
    kernel_streamCollide.xi_62 s j = FluctuatingMRTLatticeModel.kernel_streamCollide.xi_62 (lane s j) := by
  simp only [
    kernel_streamCollide.xi_62, FluctuatingMRTLatticeModel.kernel_streamCollide.xi_62,
    kernel_streamCollide.xi_61_lane_fused s j,
    mm256_add_pd_apply, mm256_mul_pd_apply, mm256_div_pd_apply, mm256_sqrt_pd_apply,
    mm256_set_pd_apply, mm256_load_pd_apply, mm256_loadu_pd_add, mm256_loadu_pd_sub] <;>
  ring

theorem kernel_streamCollide.xi_64_lane_fused (s : Site K) (j : Fin 4) :
    kernel_streamCollide.xi_64 s j = FluctuatingMRTLatticeModel.kernel_streamCollide.xi_64 (lane s j) := by
  simp only [
    kernel_streamCollide.xi_64, FluctuatingMRTLatticeModel.kernel_streamCollide.xi_64,
    kernel_streamCollide.xi_63_lane_fused s j, kernel_streamCollide.xi_55_lane_fused s j,
    kernel_streamCollide.xi_60_lane_fused s j, kernel_streamCollide.xi_62_lane_fused s j,
    mm256_add_pd_apply, mm256_mul_pd_apply, mm256_div_pd_apply, mm256_sqrt_pd_apply,
    mm256_set_pd_apply, mm256_load_pd_apply, mm256_loadu_pd_add, mm256_loadu_pd_sub] <;>
  ring

theorem kernel_streamCollide.xi_66_lane_fused (s : Site K) (j : Fin 4) :
    kernel_streamCollide.xi_66 s j = FluctuatingMRTLatticeModel.kernel_streamCollide.xi_66 (lane s j) := by
  simp only [
    kernel_streamCollide.xi_66, FluctuatingMRTLatticeModel.kernel_streamCollide.xi_66,
    kernel_streamCollide.xi_58_lane_fused s j, kernel_streamCollide.xi_55_lane_fused s j,
    mm256_add_pd_apply, mm256_mul_pd_apply, mm256_div_pd_apply, mm256_sqrt_pd_apply,
    mm256_set_pd_apply, mm256_load_pd_apply, mm256_loadu_pd_add, mm256_loadu_pd_sub] <;>
  ring

theorem kernel_streamCollide.xi_67_lane_fused (s : Site K) (j : Fin 4) :
    kernel_streamCollide.xi_67 s j = FluctuatingMRTLatticeModel.kernel_streamCollide.xi_67 (lane s j) := by
  simp only [
    kernel_streamCollide.xi_67, FluctuatingMRTLatticeModel.kernel_streamCollide.xi_67,
    kernel_streamCollide.xi_66_lane_fused s j,
    mm256_add_pd_apply, mm256_mul_pd_apply, mm256_div_pd_apply, mm256_sqrt_pd_apply,
    mm256_set_pd_apply, mm256_load_pd_apply, mm256_loadu_pd_add, mm256_loadu_pd_sub] <;>
  ring

theorem kernel_streamCollide.xi_68_lane_fused (s : Site K) (j : Fin 4) :
    kernel_streamCollide.xi_68 s j = FluctuatingMRTLatticeModel.kernel_streamCollide.xi_68 (lane s j) := by
  simp only [
    kernel_streamCollide.xi_68, FluctuatingMRTLatticeModel.kernel_streamCollide.xi_68,
    kernel_streamCollide.xi_63_lane_fused s j, kernel_streamCollide.xi_56_lane_fused s j,
    kernel_streamCollide.xi_60_lane_fused s j, kernel_streamCollide.xi_67_lane_fused s j,
    mm256_add_pd_apply, mm256_mul_pd_apply, mm256_div_pd_apply, mm256_sqrt_pd_apply,
    mm256_set_pd_apply, mm256_load_pd_apply, mm256_loadu_pd_add, mm256_loadu_pd_sub] <;>
  ring

theorem kernel_streamCollide.xi_70_lane_fused (s : Site K) (j : Fin 4) :
    kernel_streamCollide.xi_70 s j = FluctuatingMRTLatticeModel.kernel_streamCollide.xi_70 (lane s j) := by
  simp only [
    kernel_streamCollide.xi_70, FluctuatingMRTLatticeModel.kernel_streamCollide.xi_70,
    kernel_streamCollide.xi_63_lane_fused s j, kernel_streamCollide.xi_50_lane_fused s j,
    kernel_streamCollide.xi_62_lane_fused s j, kernel_streamCollide.xi_67_lane_fused s j,
    mm256_add_pd_apply, mm256_mul_pd_apply, mm256_div_pd_apply, mm256_sqrt_pd_apply,
    mm256_set_pd_apply, mm256_load_pd_apply, mm256_loadu_pd_add, mm256_loadu_pd_sub] <;>
  ring

theorem kernel_streamCollide.xi_77_lane_fused (s : Site K) (j : Fin 4) :
    kernel_streamCollide.xi_77 s j = FluctuatingMRTLatticeModel.kernel_streamCollide.xi_77 (lane s j) := by
  simp only [
    kernel_streamCollide.xi_77, FluctuatingMRTLatticeModel.kernel_streamCollide.xi_77,
    kernel_streamCollide.xi_76_lane_fused s j, kernel_streamCollide.xi_61_lane_fused s j,
    mm256_add_pd_apply, mm256_mul_pd_apply, mm256_div_pd_apply, mm256_sqrt_pd_apply,
    mm256_set_pd_apply, mm256_load_pd_apply, mm256_loadu_pd_add, mm256_loadu_pd_sub] <;>
  ring

theorem kernel_streamCollide.xi_79_lane_fused (s : Site K) (j : Fin 4) :
    kernel_streamCollide.xi_79 s j = FluctuatingMRTLatticeModel.kernel_streamCollide.xi_79 (lane s j) := by
  simp only [
    kernel_streamCollide.xi_79, FluctuatingMRTLatticeModel.kernel_streamCollide.xi_79,
    kernel_streamCollide.xi_78_lane_fused s j, kernel_streamCollide.xi_50_lane_fused s j,
    mm256_add_pd_apply, mm256_mul_pd_apply, mm256_div_pd_apply, mm256_sqrt_pd_apply,
    mm256_set_pd_apply, mm256_load_pd_apply, mm256_loadu_pd_add, mm256_loadu_pd_sub] <;>
  ring

theorem kernel_streamCollide.xi_81_lane_fused (s : Site K) (j : Fin 4) :
    kernel_streamCollide.xi_81 s j = FluctuatingMRTLatticeModel.kernel_streamCollide.xi_81 (lane s j) := by
  simp only [
    kernel_streamCollide.xi_81, FluctuatingMRTLatticeModel.kernel_streamCollide.xi_81,
    kernel_streamCollide.xi_47_lane_fused s j,
    mm256_add_pd_apply, mm256_mul_pd_apply, mm256_div_pd_apply, mm256_sqrt_pd_apply,
    mm256_set_pd_apply, mm256_load_pd_apply, mm256_loadu_pd_add, mm256_loadu_pd_sub] <;>
  ring

theorem kernel_streamCollide.xi_82_lane_fused (s : Site K) (j : Fin 4) :
    kernel_streamCollide.xi_82 s j = FluctuatingMRTLatticeModel.kernel_streamCollide.xi_82 (lane s j) := by
  simp only [
    kernel_streamCollide.xi_82, FluctuatingMRTLatticeModel.kernel_streamCollide.xi_82,
    kernel_streamCollide.xi_66_lane_fused s j, kernel_streamCollide.xi_81_lane_fused s j,
    mm256_add_pd_apply, mm256_mul_pd_apply, mm256_div_pd_apply, mm256_sqrt_pd_apply,
    mm256_set_pd_apply, mm256_load_pd_apply, mm256_loadu_pd_add, mm256_loadu_pd_sub] <;>
  ring

theorem kernel_streamCollide.xi_83_lane_fused (s : Site K) (j : Fin 4) :
    kernel_streamCollide.xi_83 s j = FluctuatingMRTLatticeModel.kernel_streamCollide.xi_83 (lane s j) := by
  simp only [
    kernel_streamCollide.xi_83, FluctuatingMRTLatticeModel.kernel_streamCollide.xi_83,
    kernel_streamCollide.xi_80_lane_fused s j, kernel_streamCollide.xi_82_lane_fused s j,
    mm256_add_pd_apply, mm256_mul_pd_apply, mm256_div_pd_apply, mm256_sqrt_pd_apply,
    mm256_set_pd_apply, mm256_load_pd_apply, mm256_loadu_pd_add, mm256_loadu_pd_sub] <;>
  ring

theorem kernel_streamCollide.xi_84_lane_fused (s : Site K) (j : Fin 4) :
    kernel_streamCollide.xi_84 s j = FluctuatingMRTLatticeModel.kernel_streamCollide.xi_84 (lane s j) := by
  simp only [
    kernel_streamCollide.xi_84, FluctuatingMRTLatticeModel.kernel_streamCollide.xi_84,
    kernel_streamCollide.xi_79_lane_fused s j, kernel_streamCollide.xi_83_lane_fused s j,
    mm256_add_pd_apply, mm256_mul_pd_apply, mm256_div_pd_apply, mm256_sqrt_pd_apply,
    mm256_set_pd_apply, mm256_load_pd_apply, mm256_loadu_pd_add, mm256_loadu_pd_sub] <;>
  ring

theorem kernel_streamCollide.xi_85_lane_fused (s : Site K) (j : Fin 4) :
    kernel_streamCollide.xi_85 s j = FluctuatingMRTLatticeModel.kernel_streamCollide.xi_85 (lane s j) := by
  simp only [
    kernel_streamCollide.xi_85, FluctuatingMRTLatticeModel.kernel_streamCollide.xi_85,
    kernel_streamCollide.xi_76_lane_fused s j, kernel_streamCollide.xi_61_lane_fused s j,
    mm256_add_pd_apply, mm256_mul_pd_apply, mm256_div_pd_apply, mm256_sqrt_pd_apply,
    mm256_set_pd_apply, mm256_load_pd_apply, mm256_loadu_pd_add, mm256_loadu_pd_sub] <;>
  ring

theorem kernel_streamCollide.xi_86_lane_fused (s : Site K) (j : Fin 4) :
    kernel_streamCollide.xi_86 s j = FluctuatingMRTLatticeModel.kernel_streamCollide.xi_86 (lane s j) := by
  simp only [
    kernel_streamCollide.xi_86, FluctuatingMRTLatticeModel.kernel_streamCollide.xi_86,
    kernel_streamCollide.xi_80_lane_fused s j, kernel_streamCollide.xi_82_lane_fused s j,
    mm256_add_pd_apply, mm256_mul_pd_apply, mm256_div_pd_apply, mm256_sqrt_pd_apply,
    mm256_set_pd_apply, mm256_load_pd_apply, mm256_loadu_pd_add, mm256_loadu_pd_sub] <;>
  ring

theorem kernel_streamCollide.xi_87_lane_fused (s : Site K) (j : Fin 4) :
    kernel_streamCollide.xi_87 s j = FluctuatingMRTLatticeModel.kernel_streamCollide.xi_87 (lane s j) := by
  simp only [
    kernel_streamCollide.xi_87, FluctuatingMRTLatticeModel.kernel_streamCollide.xi_87,
    kernel_streamCollide.xi_79_lane_fused s j, kernel_streamCollide.xi_86_lane_fused s j,
    mm256_add_pd_apply, mm256_mul_pd_apply, mm256_div_pd_apply, mm256_sqrt_pd_apply,
    mm256_set_pd_apply, mm256_load_pd_apply, mm256_loadu_pd_add, mm256_loadu_pd_sub] <;>
  ring

theorem kernel_streamCollide.xi_88_lane_fused (s : Site K) (j : Fin 4) :
    kernel_streamCollide.xi_88 s j = FluctuatingMRTLatticeModel.kernel_streamCollide.xi_88 (lane s j) := by
  simp only [
    kernel_streamCollide.xi_88, FluctuatingMRTLatticeModel.kernel_streamCollide.xi_88,
    kernel_streamCollide.xi_73_lane_fused s j, kernel_streamCollide.xi_72_lane_fused s j,
    kernel_streamCollide.xi_71_lane_fused s j, kernel_streamCollide.u_2_lane_fused s j, lane__data_force s j,
    lane_ctr_0 s j, lane_ctr_1 s j, lane_ctr_2 s j,
    mm256_add_pd_apply, mm256_mul_pd_apply, mm256_div_pd_apply, mm256_sqrt_pd_apply,
    mm256_set_pd_apply, mm256_load_pd_apply, mm256_loadu_pd_add, mm256_loadu_pd_sub] <;>
  ring

theorem kernel_streamCollide.xi_89_lane_fused (s : Site K) (j : Fin 4) :
    kernel_streamCollide.xi_89 s j = FluctuatingMRTLatticeModel.kernel_streamCollide.xi_89 (lane s j) := by
  simp only [
    kernel_streamCollide.xi_89, FluctuatingMRTLatticeModel.kernel_streamCollide.xi_89,
    kernel_streamCollide.xi_78_lane_fused s j, kernel_streamCollide.xi_56_lane_fused s j,
    mm256_add_pd_apply, mm256_mul_pd_apply, mm256_div_pd_apply, mm256_sqrt_pd_apply,
    mm256_set_pd_apply, mm256_load_pd_apply, mm256_loadu_pd_add, mm256_loadu_pd_sub] <;>
  ring

theorem kernel_streamCollide.xi_91_lane_fused (s : Site K) (j : Fin 4) :
    kernel_streamCollide.xi_91 s j = FluctuatingMRTLatticeModel.kernel_streamCollide.xi_91 (lane s j) := by
  simp only [
    kernel_streamCollide.xi_91, FluctuatingMRTLatticeModel.kernel_streamCollide.xi_91,
    kernel_streamCollide.xi_90_lane_fused s j, kernel_streamCollide.xi_59_lane_fused s j,
    mm256_add_pd_apply, mm256_mul_pd_apply, mm256_div_pd_apply, mm256_sqrt_pd_apply,
    mm256_set_pd_apply, mm256_load_pd_apply, mm256_loadu_pd_add, mm256_loadu_pd_sub] <;>
  ring

theorem kernel_streamCollide.xi_92_lane_fused (s : Site K) (j : Fin 4) :
    kernel_streamCollide.xi_92 s j = FluctuatingMRTLatticeModel.kernel_streamCollide.xi_92 (lane s j) := by
  simp only [
    kernel_streamCollide.xi_92, FluctuatingMRTLatticeModel.kernel_streamCollide.xi_92,
    kernel_streamCollide.xi_89_lane_fused s j, kernel_streamCollide.xi_91_lane_fused s j,
    mm256_add_pd_apply, mm256_mul_pd_apply, mm256_div_pd_apply, mm256_sqrt_pd_apply,
    mm256_set_pd_apply, mm256_load_pd_apply, mm256_loadu_pd_add, mm256_loadu_pd_sub] <;>
  ring

theorem kernel_streamCollide.xi_93_lane_fused (s : Site K) (j : Fin 4) :
    kernel_streamCollide.xi_93 s j = FluctuatingMRTLatticeModel.kernel_streamCollide.xi_93 (lane s j) := by
  simp only [
    kernel_streamCollide.xi_93, FluctuatingMRTLatticeModel.kernel_streamCollide.xi_93,
    kernel_streamCollide.xi_88_lane_fused s j,
    mm256_add_pd_apply, mm256_mul_pd_apply, mm256_div_pd_apply, mm256_sqrt_pd_apply,
    mm256_set_pd_apply, mm256_load_pd_apply, mm256_loadu_pd_add, mm256_loadu_pd_sub] <;>
  ring

theorem kernel_streamCollide.xi_94_lane_fused (s : Site K) (j : Fin 4) :
    kernel_streamCollide.xi_94 s j = FluctuatingMRTLatticeModel.kernel_streamCollide.xi_94 (lane s j) := by
  simp only [
    kernel_streamCollide.xi_94, FluctuatingMRTLatticeModel.kernel_streamCollide.xi_94,
    kernel_streamCollide.xi_73_lane_fused s j, kernel_streamCollide.u_0_lane_fused s j,
    kernel_streamCollide.u_2_lane_fused s j, lane__data_force s j, lane_ctr_0 s j, lane_ctr_1 s j,
    lane_ctr_2 s j,
    mm256_add_pd_apply, mm256_mul_pd_apply, mm256_div_pd_apply, mm256_sqrt_pd_apply,
    mm256_set_pd_apply, mm256_load_pd_apply, mm256_loadu_pd_add, mm256_loadu_pd_sub] <;>
  ring

theorem kernel_streamCollide.xi_95_lane_fused (s : Site K) (j : Fin 4) :
    kernel_streamCollide.xi_95 s j = FluctuatingMRTLatticeModel.kernel_streamCollide.xi_95 (lane s j) := by
  simp only [
    kernel_streamCollide.xi_95, FluctuatingMRTLatticeModel.kernel_streamCollide.xi_95,
    kernel_streamCollide.xi_94_lane_fused s j,
    mm256_add_pd_apply, mm256_mul_pd_apply, mm256_div_pd_apply, mm256_sqrt_pd_apply,
    mm256_set_pd_apply, mm256_load_pd_apply, mm256_loadu_pd_add, mm256_loadu_pd_sub] <;>
  ring

theorem kernel_streamCollide.xi_96_lane_fused (s : Site K) (j : Fin 4) :
    kernel_streamCollide.xi_96 s j = FluctuatingMRTLatticeModel.kernel_streamCollide.xi_96 (lane s j) := by
  simp only [
    kernel_streamCollide.xi_96, FluctuatingMRTLatticeModel.kernel_streamCollide.xi_96,
    kernel_streamCollide.xi_78_lane_fused s j, kernel_streamCollide.xi_55_lane_fused s j,
    mm256_add_pd_apply, mm256_mul_pd_apply, mm256_div_pd_apply, mm256_sqrt_pd_apply,
    mm256_set_pd_apply, mm256_load_pd_apply, mm256_loadu_pd_add, mm256_loadu_pd_sub] <;>
  ring

theorem kernel_streamCollide.xi_97_lane_fused (s : Site K) (j : Fin 4) :
    kernel_streamCollide.xi_97 s j = FluctuatingMRTLatticeModel.kernel_streamCollide.xi_97 (lane s j) := by
  simp only [
    kernel_streamCollide.xi_97, FluctuatingMRTLatticeModel.kernel_streamCollide.xi_97,
    kernel_streamCollide.xi_81_lane_fused s j, kernel_streamCollide.xi_91_lane_fused s j,
    kernel_streamCollide.xi_96_lane_fused s j,
    mm256_add_pd_apply, mm256_mul_pd_apply, mm256_div_pd_apply, mm256_sqrt_pd_apply,
    mm256_set_pd_apply, mm256_load_pd_apply, mm256_loadu_pd_add, mm256_loadu_pd_sub] <;>
  ring

theorem kernel_streamCollide.xi_98_lane_fused (s : Site K) (j : Fin 4) :
    kernel_streamCollide.xi_98 s j = FluctuatingMRTLatticeModel.kernel_streamCollide.xi_98 (lane s j) := by
  simp only [
    kernel_streamCollide.xi_98, FluctuatingMRTLatticeModel.kernel_streamCollide.xi_98,
    kernel_streamCollide.xi_90_lane_fused s j, kernel_streamCollide.xi_59_lane_fused s j,
    mm256_add_pd_apply, mm256_mul_pd_apply, mm256_div_pd_apply, mm256_sqrt_pd_apply,
    mm256_set_pd_apply, mm256_load_pd_apply, mm256_loadu_pd_add, mm256_loadu_pd_sub] <;>
  ring

theorem kernel_streamCollide.xi_99_lane_fused (s : Site K) (j : Fin 4) :
    kernel_streamCollide.xi_99 s j = FluctuatingMRTLatticeModel.kernel_streamCollide.xi_99 (lane s j) := by
  simp only [
    kernel_streamCollide.xi_99, FluctuatingMRTLatticeModel.kernel_streamCollide.xi_99,
    kernel_streamCollide.xi_89_lane_fused s j, kernel_streamCollide.xi_98_lane_fused s j,
    mm256_add_pd_apply, mm256_mul_pd_apply, mm256_div_pd_apply, mm256_sqrt_pd_apply,
    mm256_set_pd_apply, mm256_load_pd_apply, mm256_loadu_pd_add, mm256_loadu_pd_sub] <;>
  ring

theorem kernel_streamCollide.xi_100_lane_fused (s : Site K) (j : Fin 4) :
    kernel_streamCollide.xi_100 s j = FluctuatingMRTLatticeModel.kernel_streamCollide.xi_100 (lane s j) := by
  simp only [
    kernel_streamCollide.xi_100, FluctuatingMRTLatticeModel.kernel_streamCollide.xi_100,
    kernel_streamCollide.xi_81_lane_fused s j, kernel_streamCollide.xi_96_lane_fused s j,
    kernel_streamCollide.xi_98_lane_fused s j,
    mm256_add_pd_apply, mm256_mul_pd_apply, mm256_div_pd_apply, mm256_sqrt_pd_apply,
    mm256_set_pd_apply, mm256_load_pd_apply, mm256_loadu_pd_add, mm256_loadu_pd_sub] <;>
  ring

theorem kernel_streamCollide.xi_115_lane_fused (s : Site K) (j : Fin 4) :
    kernel_streamCollide.xi_115 s j = FluctuatingMRTLatticeModel.kernel_streamCollide.xi_115 (lane s j) := by
  simp only [
    kernel_streamCollide.xi_115, FluctuatingMRTLatticeModel.kernel_streamCollide.xi_115,
    kernel_streamCollide.rho_lane_fused s j, kernel_streamCollide.u_2_lane_fused s j,
    mm256_add_pd_apply, mm256_mul_pd_apply, mm256_div_pd_apply, mm256_sqrt_pd_apply,
    mm256_set_pd_apply, mm256_load_pd_apply, mm256_loadu_pd_add, mm256_loadu_pd_sub] <;>
  ring

theorem kernel_streamCollide.xi_123_lane_fused (s : Site K) (j : Fin 4) :
    kernel_streamCollide.xi_123 s j = FluctuatingMRTLatticeModel.kernel_streamCollide.xi_123 (lane s j) := by
  simp only [
    kernel_streamCollide.xi_123, FluctuatingMRTLatticeModel.kernel_streamCollide.xi_123,
    kernel_streamCollide.xi_24_lane_fused s j, kernel_streamCollide.xi_28_lane_fused s j,
    kernel_streamCollide.xi_117_lane_fused s j, kernel_streamCollide.xi_122_lane_fused s j,
    kernel_streamCollide.xi_114_lane_fused s j, kernel_streamCollide.xi_120_lane_fused s j,
    kernel_streamCollide.xi_115_lane_fused s j, lane__data_pdfs s j, lane_omega_bulk s j, lane_ctr_0 s
    j, lane_ctr_1 s j, lane_ctr_2 s j,
    mm256_add_pd_apply, mm256_mul_pd_apply, mm256_div_pd_apply, mm256_sqrt_pd_apply,
    mm256_set_pd_apply, mm256_load_pd_apply, mm256_loadu_pd_add, mm256_loadu_pd_sub] <;>
  ring

theorem kernel_streamCollide.xi_155_lane_fused (s : Site K) (j : Fin 4) :
    kernel_streamCollide.xi_155 s j = FluctuatingMRTLatticeModel.kernel_streamCollide.xi_155 (lane s j) := by
  simp only [
    kernel_streamCollide.xi_155, FluctuatingMRTLatticeModel.kernel_streamCollide.xi_155,
    kernel_streamCollide.xi_115_lane_fused s j, lane__data_pdfs s j, lane_ctr_0 s j, lane_ctr_1 s j,
    lane_ctr_2 s j,
    mm256_add_pd_apply, mm256_mul_pd_apply, mm256_div_pd_apply, mm256_sqrt_pd_apply,
    mm256_set_pd_apply, mm256_load_pd_apply, mm256_loadu_pd_add, mm256_loadu_pd_sub] <;>
  ring

theorem kernel_streamCollide.xi_156_lane_fused (s : Site K) (j : Fin 4) :
    kernel_streamCollide.xi_156 s j = FluctuatingMRTLatticeModel.kernel_streamCollide.xi_156 (lane s j) := by
  simp only [
    kernel_streamCollide.xi_156, FluctuatingMRTLatticeModel.kernel_streamCollide.xi_156,
    kernel_streamCollide.xi_1_lane_fused s j, kernel_streamCollide.xi_18_lane_fused s j,
    kernel_streamCollide.xi_23_lane_fused s j, kernel_streamCollide.xi_31_lane_fused s j,
    kernel_streamCollide.xi_120_lane_fused s j, kernel_streamCollide.xi_155_lane_fused s j, lane__data_pdfs s
    j, lane_omega_shear s j, lane_ctr_0 s j, lane_ctr_1 s j, lane_ctr_2 s j,
    mm256_add_pd_apply, mm256_mul_pd_apply, mm256_div_pd_apply, mm256_sqrt_pd_apply,
    mm256_set_pd_apply, mm256_load_pd_apply, mm256_loadu_pd_add, mm256_loadu_pd_sub] <;>
  ring

theorem kernel_streamCollide.xi_157_lane_fused (s : Site K) (j : Fin 4) :
    kernel_streamCollide.xi_157 s j = FluctuatingMRTLatticeModel.kernel_streamCollide.xi_157 (lane s j) := by
  simp only [
    kernel_streamCollide.xi_157, FluctuatingMRTLatticeModel.kernel_streamCollide.xi_157,
    kernel_streamCollide.xi_156_lane_fused s j,
    mm256_add_pd_apply, mm256_mul_pd_apply, mm256_div_pd_apply, mm256_sqrt_pd_apply,
    mm256_set_pd_apply, mm256_load_pd_apply, mm256_loadu_pd_add, mm256_loadu_pd_sub] <;>
  ring

theorem kernel_streamCollide.xi_159_lane_fused (s : Site K) (j : Fin 4) :
    kernel_streamCollide.xi_159 s j = FluctuatingMRTLatticeModel.kernel_streamCollide.xi_159 (lane s j) := by
  simp only [
    kernel_streamCollide.xi_159, FluctuatingMRTLatticeModel.kernel_streamCollide.xi_159,
    kernel_streamCollide.xi_20_lane_fused s j, kernel_streamCollide.xi_111_lane_fused s j,
    kernel_streamCollide.xi_118_lane_fused s j, kernel_streamCollide.xi_122_lane_fused s j,
    kernel_streamCollide.xi_114_lane_fused s j, kernel_streamCollide.xi_119_lane_fused s j,
    kernel_streamCollide.xi_155_lane_fused s j, lane__data_pdfs s j, lane_omega_shear s j, lane_ctr_0 s
    j, lane_ctr_1 s j, lane_ctr_2 s j,
    mm256_add_pd_apply, mm256_mul_pd_apply, mm256_div_pd_apply, mm256_sqrt_pd_apply,
    mm256_set_pd_apply, mm256_load_pd_apply, mm256_loadu_pd_add, mm256_loadu_pd_sub] <;>
  ring

theorem kernel_streamCollide.xi_161_lane_fused (s : Site K) (j : Fin 4) :
    kernel_streamCollide.xi_161 s j = FluctuatingMRTLatticeModel.kernel_streamCollide.xi_161 (lane s j) := by
  simp only [
    kernel_streamCollide.xi_161, FluctuatingMRTLatticeModel.kernel_streamCollide.xi_161,
    kernel_streamCollide.xi_160_lane_fused s j, kernel_streamCollide.xi_159_lane_fused s j,
    mm256_add_pd_apply, mm256_mul_pd_apply, mm256_div_pd_apply, mm256_sqrt_pd_apply,
    mm256_set_pd_apply, mm256_load_pd_apply, mm256_loadu_pd_add, mm256_loadu_pd_sub] <;>
  ring

theorem kernel_streamCollide.xi_162_lane_fused (s : Site K) (j : Fin 4) :
    kernel_streamCollide.xi_162 s j = FluctuatingMRTLatticeModel.kernel_streamCollide.xi_162 (lane s j) := by
  simp only [
    kernel_streamCollide.xi_162, FluctuatingMRTLatticeModel.kernel_streamCollide.xi_162,
    kernel_streamCollide.xi_110_lane_fused s j, kernel_streamCollide.xi_104_lane_fused s j,
    kernel_streamCollide.xi_161_lane_fused s j,
    mm256_add_pd_apply, mm256_mul_pd_apply, mm256_div_pd_apply, mm256_sqrt_pd_apply,
    mm256_set_pd_apply, mm256_load_pd_apply, mm256_loadu_pd_add, mm256_loadu_pd_sub] <;>
  ring

theorem kernel_streamCollide.xi_163_lane_fused (s : Site K) (j : Fin 4) :
    kernel_streamCollide.xi_163 s j = FluctuatingMRTLatticeModel.kernel_streamCollide.xi_163 (lane s j) := by
  simp only [
    kernel_streamCollide.xi_163, FluctuatingMRTLatticeModel.kernel_streamCollide.xi_163,
    kernel_streamCollide.xi_113_lane_fused s j, kernel_streamCollide.xi_107_lane_fused s j,
    kernel_streamCollide.xi_154_lane_fused s j, kernel_streamCollide.xi_158_lane_fused s j,
    kernel_streamCollide.xi_157_lane_fused s j, kernel_streamCollide.xi_162_lane_fused s j,
    mm256_add_pd_apply, mm256_mul_pd_apply, mm256_div_pd_apply, mm256_sqrt_pd_apply,
    mm256_set_pd_apply, mm256_load_pd_apply, mm256_loadu_pd_add, mm256_loadu_pd_sub] <;>
  ring

theorem kernel_streamCollide.xi_177_lane_fused (s : Site K) (j : Fin 4) :
    kernel_streamCollide.xi_177 s j = FluctuatingMRTLatticeModel.kernel_streamCollide.xi_177 (lane s j) := by
  simp only [
    kernel_streamCollide.xi_177, FluctuatingMRTLatticeModel.kernel_streamCollide.xi_177,
    kernel_streamCollide.xi_113_lane_fused s j, kernel_streamCollide.xi_107_lane_fused s j,
    kernel_streamCollide.xi_158_lane_fused s j, kernel_streamCollide.xi_160_lane_fused s j,
    kernel_streamCollide.xi_159_lane_fused s j,
    mm256_add_pd_apply, mm256_mul_pd_apply, mm256_div_pd_apply, mm256_sqrt_pd_apply,
    mm256_set_pd_apply, mm256_load_pd_apply, mm256_loadu_pd_add, mm256_loadu_pd_sub] <;>
  ring

theorem kernel_streamCollide.xi_182_lane_fused (s : Site K) (j : Fin 4) :
    kernel_streamCollide.xi_182 s j = FluctuatingMRTLatticeModel.kernel_streamCollide.xi_182 (lane s j) := by
  simp only [
    kernel_streamCollide.xi_182, FluctuatingMRTLatticeModel.kernel_streamCollide.xi_182,
    kernel_streamCollide.xi_10_lane_fused s j, kernel_streamCollide.xi_116_lane_fused s j,
    kernel_streamCollide.xi_121_lane_fused s j, kernel_streamCollide.xi_179_lane_fused s j,
    kernel_streamCollide.vel2Term_lane_fused s j, kernel_streamCollide.rho_lane_fused s j,
    kernel_streamCollide.u_2_lane_fused s j, lane__data_pdfs s j, lane_ctr_0 s j, lane_ctr_1 s j,
    lane_ctr_2 s j,
    mm256_add_pd_apply, mm256_mul_pd_apply, mm256_div_pd_apply, mm256_sqrt_pd_apply,
    mm256_set_pd_apply, mm256_load_pd_apply, mm256_loadu_pd_add, mm256_loadu_pd_sub] <;>
  ring

theorem kernel_streamCollide.xi_183_lane_fused (s : Site K) (j : Fin 4) :
    kernel_streamCollide.xi_183 s j = FluctuatingMRTLatticeModel.kernel_streamCollide.xi_183 (lane s j) := by
  simp only [
    kernel_streamCollide.xi_183, FluctuatingMRTLatticeModel.kernel_streamCollide.xi_183,
    kernel_streamCollide.xi_133_lane_fused s j, kernel_streamCollide.xi_182_lane_fused s j,
    mm256_add_pd_apply, mm256_mul_pd_apply, mm256_div_pd_apply, mm256_sqrt_pd_apply,
    mm256_set_pd_apply, mm256_load_pd_apply, mm256_loadu_pd_add, mm256_loadu_pd_sub] <;>
  ring

theorem kernel_streamCollide.xi_191_lane_fused (s : Site K) (j : Fin 4) :
    kernel_streamCollide.xi_191 s j = FluctuatingMRTLatticeModel.kernel_streamCollide.xi_191 (lane s j) := by
  simp only [
    kernel_streamCollide.xi_191, FluctuatingMRTLatticeModel.kernel_streamCollide.xi_191,
    kernel_streamCollide.xi_113_lane_fused s j, kernel_streamCollide.xi_127_lane_fused s j,
    kernel_streamCollide.xi_103_lane_fused s j, kernel_streamCollide.xi_107_lane_fused s j,
    kernel_streamCollide.xi_154_lane_fused s j, kernel_streamCollide.xi_157_lane_fused s j,
    kernel_streamCollide.xi_162_lane_fused s j,
    mm256_add_pd_apply, mm256_mul_pd_apply, mm256_div_pd_apply, mm256_sqrt_pd_apply,
    mm256_set_pd_apply, mm256_load_pd_apply, mm256_loadu_pd_add, mm256_loadu_pd_sub] <;>
  ring

theorem kernel_streamCollide.xi_194_lane_fused (s : Site K) (j : Fin 4) :
    kernel_streamCollide.xi_194 s j = FluctuatingMRTLatticeModel.kernel_streamCollide.xi_194 (lane s j) := by
  simp only [
    kernel_streamCollide.xi_194, FluctuatingMRTLatticeModel.kernel_streamCollide.xi_194,
    kernel_streamCollide.xi_156_lane_fused s j,
    mm256_add_pd_apply, mm256_mul_pd_apply, mm256_div_pd_apply, mm256_sqrt_pd_apply,
    mm256_set_pd_apply, mm256_load_pd_apply, mm256_loadu_pd_add, mm256_loadu_pd_sub] <;>
  ring

theorem kernel_streamCollide.xi_199_lane_fused (s : Site K) (j : Fin 4) :
    kernel_streamCollide.xi_199 s j = FluctuatingMRTLatticeModel.kernel_streamCollide.xi_199 (lane s j) := by
  simp only [
    kernel_streamCollide.xi_199, FluctuatingMRTLatticeModel.kernel_streamCollide.xi_199,
    kernel_streamCollide.xi_106_lane_fused s j, kernel_streamCollide.xi_123_lane_fused s j,
    mm256_add_pd_apply, mm256_mul_pd_apply, mm256_div_pd_apply, mm256_sqrt_pd_apply,
    mm256_set_pd_apply, mm256_load_pd_apply, mm256_loadu_pd_add, mm256_loadu_pd_sub] <;>
  ring

theorem kernel_streamCollide.xi_200_lane_fused (s : Site K) (j : Fin 4) :
    kernel_streamCollide.xi_200 s j = FluctuatingMRTLatticeModel.kernel_streamCollide.xi_200 (lane s j) := by
  simp only [
    kernel_streamCollide.xi_200, FluctuatingMRTLatticeModel.kernel_streamCollide.xi_200,
    kernel_streamCollide.xi_198_lane_fused s j, kernel_streamCollide.xi_199_lane_fused s j,
    mm256_add_pd_apply, mm256_mul_pd_apply, mm256_div_pd_apply, mm256_sqrt_pd_apply,
    mm256_set_pd_apply, mm256_load_pd_apply, mm256_loadu_pd_add, mm256_loadu_pd_sub] <;>
  ring

theorem kernel_streamCollide.xi_201_lane_fused (s : Site K) (j : Fin 4) :
    kernel_streamCollide.xi_201 s j = FluctuatingMRTLatticeModel.kernel_streamCollide.xi_201 (lane s j) := by
  simp only [
    kernel_streamCollide.xi_201, FluctuatingMRTLatticeModel.kernel_streamCollide.xi_201,
    kernel_streamCollide.xi_195_lane_fused s j, kernel_streamCollide.xi_164_lane_fused s j,
    kernel_streamCollide.xi_193_lane_fused s j, kernel_streamCollide.xi_196_lane_fused s j,
    kernel_streamCollide.xi_194_lane_fused s j, kernel_streamCollide.xi_200_lane_fused s j,
    mm256_add_pd_apply, mm256_mul_pd_apply, mm256_div_pd_apply, mm256_sqrt_pd_apply,
    mm256_set_pd_apply, mm256_load_pd_apply, mm256_loadu_pd_add, mm256_loadu_pd_sub] <;>
  ring

theorem kernel_streamCollide.xi_203_lane_fused (s : Site K) (j : Fin 4) :
    kernel_streamCollide.xi_203 s j = FluctuatingMRTLatticeModel.kernel_streamCollide.xi_203 (lane s j) := by
  simp only [
    kernel_streamCollide.xi_203, FluctuatingMRTLatticeModel.kernel_streamCollide.xi_203,
    kernel_streamCollide.xi_160_lane_fused s j, kernel_streamCollide.xi_159_lane_fused s j,
    mm256_add_pd_apply, mm256_mul_pd_apply, mm256_div_pd_apply, mm256_sqrt_pd_apply,
    mm256_set_pd_apply, mm256_load_pd_apply, mm256_loadu_pd_add, mm256_loadu_pd_sub] <;>
  ring

theorem kernel_streamCollide.xi_204_lane_fused (s : Site K) (j : Fin 4) :
    kernel_streamCollide.xi_204 s j = FluctuatingMRTLatticeModel.kernel_streamCollide.xi_204 (lane s j) := by
  simp only [
    kernel_streamCollide.xi_204, FluctuatingMRTLatticeModel.kernel_streamCollide.xi_204,
    kernel_streamCollide.xi_202_lane_fused s j, kernel_streamCollide.xi_203_lane_fused s j,
    mm256_add_pd_apply, mm256_mul_pd_apply, mm256_div_pd_apply, mm256_sqrt_pd_apply,
    mm256_set_pd_apply, mm256_load_pd_apply, mm256_loadu_pd_add, mm256_loadu_pd_sub] <;>
  ring

theorem kernel_streamCollide.xi_205_lane_fused (s : Site K) (j : Fin 4) :
    kernel_streamCollide.xi_205 s j = FluctuatingMRTLatticeModel.kernel_streamCollide.xi_205 (lane s j) := by
  simp only [
    kernel_streamCollide.xi_205, FluctuatingMRTLatticeModel.kernel_streamCollide.xi_205,
    kernel_streamCollide.xi_178_lane_fused s j, kernel_streamCollide.xi_204_lane_fused s j,
    mm256_add_pd_apply, mm256_mul_pd_apply, mm256_div_pd_apply, mm256_sqrt_pd_apply,
    mm256_set_pd_apply, mm256_load_pd_apply, mm256_loadu_pd_add, mm256_loadu_pd_sub] <;>
  ring

theorem kernel_streamCollide.xi_211_lane_fused (s : Site K) (j : Fin 4) :
    kernel_streamCollide.xi_211 s j = FluctuatingMRTLatticeModel.kernel_streamCollide.xi_211 (lane s j) := by
  simp only [
    kernel_streamCollide.xi_211, FluctuatingMRTLatticeModel.kernel_streamCollide.xi_211,
    kernel_streamCollide.xi_202_lane_fused s j, kernel_streamCollide.xi_203_lane_fused s j,
    mm256_add_pd_apply, mm256_mul_pd_apply, mm256_div_pd_apply, mm256_sqrt_pd_apply,
    mm256_set_pd_apply, mm256_load_pd_apply, mm256_loadu_pd_add, mm256_loadu_pd_sub] <;>
  ring

theorem kernel_streamCollide.xi_212_lane_fused (s : Site K) (j : Fin 4) :
    kernel_streamCollide.xi_212 s j = FluctuatingMRTLatticeModel.kernel_streamCollide.xi_212 (lane s j) := by
  simp only [
    kernel_streamCollide.xi_212, FluctuatingMRTLatticeModel.kernel_streamCollide.xi_212,
    kernel_streamCollide.xi_176_lane_fused s j, kernel_streamCollide.xi_211_lane_fused s j,
    mm256_add_pd_apply, mm256_mul_pd_apply, mm256_div_pd_apply, mm256_sqrt_pd_apply,
    mm256_set_pd_apply, mm256_load_pd_apply, mm256_loadu_pd_add, mm256_loadu_pd_sub] <;>
  ring

theorem kernel_streamCollide.xi_213_lane_fused (s : Site K) (j : Fin 4) :
    kernel_streamCollide.xi_213 s j = FluctuatingMRTLatticeModel.kernel_streamCollide.xi_213 (lane s j) := by
  simp only [
    kernel_streamCollide.xi_213, FluctuatingMRTLatticeModel.kernel_streamCollide.xi_213,
    kernel_streamCollide.xi_198_lane_fused s j, kernel_streamCollide.xi_199_lane_fused s j,
    mm256_add_pd_apply, mm256_mul_pd_apply, mm256_div_pd_apply, mm256_sqrt_pd_apply,
    mm256_set_pd_apply, mm256_load_pd_apply, mm256_loadu_pd_add, mm256_loadu_pd_sub] <;>
  ring

theorem kernel_streamCollide.xi_214_lane_fused (s : Site K) (j : Fin 4) :
    kernel_streamCollide.xi_214 s j = FluctuatingMRTLatticeModel.kernel_streamCollide.xi_214 (lane s j) := by
  simp only [
    kernel_streamCollide.xi_214, FluctuatingMRTLatticeModel.kernel_streamCollide.xi_214,
    kernel_streamCollide.xi_195_lane_fused s j, kernel_streamCollide.xi_150_lane_fused s j,
    kernel_streamCollide.xi_193_lane_fused s j, kernel_streamCollide.xi_196_lane_fused s j,
    kernel_streamCollide.xi_194_lane_fused s j, kernel_streamCollide.xi_213_lane_fused s j,
    mm256_add_pd_apply, mm256_mul_pd_apply, mm256_div_pd_apply, mm256_sqrt_pd_apply,
    mm256_set_pd_apply, mm256_load_pd_apply, mm256_loadu_pd_add, mm256_loadu_pd_sub] <;>
  ring

theorem kernel_streamCollide.xi_230_lane_fused (s : Site K) (j : Fin 4) :
    kernel_streamCollide.xi_230 s j = FluctuatingMRTLatticeModel.kernel_streamCollide.xi_230 (lane s j) := by
  simp only [
    kernel_streamCollide.xi_230, FluctuatingMRTLatticeModel.kernel_streamCollide.xi_230,
    kernel_streamCollide.xi_197_lane_fused s j, kernel_streamCollide.xi_182_lane_fused s j,
    mm256_add_pd_apply, mm256_mul_pd_apply, mm256_div_pd_apply, mm256_sqrt_pd_apply,
    mm256_set_pd_apply, mm256_load_pd_apply, mm256_loadu_pd_add, mm256_loadu_pd_sub] <;>
  ring

theorem kernel_streamCollide.xi_232_lane_fused (s : Site K) (j : Fin 4) :
    kernel_streamCollide.xi_232 s j = FluctuatingMRTLatticeModel.kernel_streamCollide.xi_232 (lane s j) := by
  simp only [
    kernel_streamCollide.xi_232, FluctuatingMRTLatticeModel.kernel_streamCollide.xi_232,
    kernel_streamCollide.xi_231_lane_fused s j, kernel_streamCollide.xi_230_lane_fused s j,
    mm256_add_pd_apply, mm256_mul_pd_apply, mm256_div_pd_apply, mm256_sqrt_pd_apply,
    mm256_set_pd_apply, mm256_load_pd_apply, mm256_loadu_pd_add, mm256_loadu_pd_sub] <;>
  ring

theorem kernel_streamCollide.xi_233_lane_fused (s : Site K) (j : Fin 4) :
    kernel_streamCollide.xi_233 s j = FluctuatingMRTLatticeModel.kernel_streamCollide.xi_233 (lane s j) := by
  simp only [
    kernel_streamCollide.xi_233, FluctuatingMRTLatticeModel.kernel_streamCollide.xi_233,
    kernel_streamCollide.xi_223_lane_fused s j, kernel_streamCollide.xi_225_lane_fused s j,
    kernel_streamCollide.xi_227_lane_fused s j, kernel_streamCollide.xi_229_lane_fused s j,
    kernel_streamCollide.xi_232_lane_fused s j,
    mm256_add_pd_apply, mm256_mul_pd_apply, mm256_div_pd_apply, mm256_sqrt_pd_apply,
    mm256_set_pd_apply, mm256_load_pd_apply, mm256_loadu_pd_add, mm256_loadu_pd_sub] <;>
  ring

theorem kernel_streamCollide.xi_238_lane_fused (s : Site K) (j : Fin 4) :
    kernel_streamCollide.xi_238 s j = FluctuatingMRTLatticeModel.kernel_streamCollide.xi_238 (lane s j) := by
  simp only [
    kernel_streamCollide.xi_238, FluctuatingMRTLatticeModel.kernel_streamCollide.xi_238,
    kernel_streamCollide.xi_234_lane_fused s j, kernel_streamCollide.xi_235_lane_fused s j,
    kernel_streamCollide.xi_236_lane_fused s j, kernel_streamCollide.xi_237_lane_fused s j,
    kernel_streamCollide.xi_200_lane_fused s j,
    mm256_add_pd_apply, mm256_mul_pd_apply, mm256_div_pd_apply, mm256_sqrt_pd_apply,
    mm256_set_pd_apply, mm256_load_pd_apply, mm256_loadu_pd_add, mm256_loadu_pd_sub] <;>
  ring

theorem kernel_streamCollide.xi_239_lane_fused (s : Site K) (j : Fin 4) :
    kernel_streamCollide.xi_239 s j = FluctuatingMRTLatticeModel.kernel_streamCollide.xi_239 (lane s j) := by
  simp only [
    kernel_streamCollide.xi_239, FluctuatingMRTLatticeModel.kernel_streamCollide.xi_239,
    kernel_streamCollide.xi_234_lane_fused s j, kernel_streamCollide.xi_235_lane_fused s j,
    kernel_streamCollide.xi_236_lane_fused s j, kernel_streamCollide.xi_237_lane_fused s j,
    kernel_streamCollide.xi_213_lane_fused s j,
    mm256_add_pd_apply, mm256_mul_pd_apply, mm256_div_pd_apply, mm256_sqrt_pd_apply,
    mm256_set_pd_apply, mm256_load_pd_apply, mm256_loadu_pd_add, mm256_loadu_pd_sub] <;>
  ring

theorem kernel_streamCollide.xi_242_lane_fused (s : Site K) (j : Fin 4) :
    kernel_streamCollide.xi_242 s j = FluctuatingMRTLatticeModel.kernel_streamCollide.xi_242 (lane s j) := by
  simp only [
    kernel_streamCollide.xi_242, FluctuatingMRTLatticeModel.kernel_streamCollide.xi_242,
    kernel_streamCollide.xi_194_lane_fused s j,
    mm256_add_pd_apply, mm256_mul_pd_apply, mm256_div_pd_apply, mm256_sqrt_pd_apply,
    mm256_set_pd_apply, mm256_load_pd_apply, mm256_loadu_pd_add, mm256_loadu_pd_sub] <;>
  ring

theorem kernel_streamCollide.xi_245_lane_fused (s : Site K) (j : Fin 4) :
    kernel_streamCollide.xi_245 s j = FluctuatingMRTLatticeModel.kernel_streamCollide.xi_245 (lane s j) := by
  simp only [
    kernel_streamCollide.xi_245, FluctuatingMRTLatticeModel.kernel_streamCollide.xi_245,
    kernel_streamCollide.xi_243_lane_fused s j, kernel_streamCollide.xi_192_lane_fused s j,
    kernel_streamCollide.xi_241_lane_fused s j, kernel_streamCollide.xi_244_lane_fused s j,
    kernel_streamCollide.xi_199_lane_fused s j, kernel_streamCollide.xi_232_lane_fused s j,
    kernel_streamCollide.xi_242_lane_fused s j,
    mm256_add_pd_apply, mm256_mul_pd_apply, mm256_div_pd_apply, mm256_sqrt_pd_apply,
    mm256_set_pd_apply, mm256_load_pd_apply, mm256_loadu_pd_add, mm256_loadu_pd_sub] <;>
  ring

theorem kernel_streamCollide.xi_253_lane_fused (s : Site K) (j : Fin 4) :
    kernel_streamCollide.xi_253 s j = FluctuatingMRTLatticeModel.kernel_streamCollide.xi_253 (lane s j) := by
  simp only [
    kernel_streamCollide.xi_253, FluctuatingMRTLatticeModel.kernel_streamCollide.xi_253,
    kernel_streamCollide.xi_249_lane_fused s j, kernel_streamCollide.xi_250_lane_fused s j,
    kernel_streamCollide.xi_251_lane_fused s j, kernel_streamCollide.xi_252_lane_fused s j,
    kernel_streamCollide.xi_204_lane_fused s j,
    mm256_add_pd_apply, mm256_mul_pd_apply, mm256_div_pd_apply, mm256_sqrt_pd_apply,
    mm256_set_pd_apply, mm256_load_pd_apply, mm256_loadu_pd_add, mm256_loadu_pd_sub] <;>
  ring

theorem kernel_streamCollide.xi_255_lane_fused (s : Site K) (j : Fin 4) :
    kernel_streamCollide.xi_255 s j = FluctuatingMRTLatticeModel.kernel_streamCollide.xi_255 (lane s j) := by
  simp only [
    kernel_streamCollide.xi_255, FluctuatingMRTLatticeModel.kernel_streamCollide.xi_255,
    kernel_streamCollide.xi_249_lane_fused s j, kernel_streamCollide.xi_250_lane_fused s j,
    kernel_streamCollide.xi_251_lane_fused s j, kernel_streamCollide.xi_252_lane_fused s j,
    kernel_streamCollide.xi_211_lane_fused s j,
    mm256_add_pd_apply, mm256_mul_pd_apply, mm256_div_pd_apply, mm256_sqrt_pd_apply,
    mm256_set_pd_apply, mm256_load_pd_apply, mm256_loadu_pd_add, mm256_loadu_pd_sub] <;>
  ring

theorem kernel_streamCollide.xi_256_lane_fused (s : Site K) (j : Fin 4) :
    kernel_streamCollide.xi_256 s j = FluctuatingMRTLatticeModel.kernel_streamCollide.xi_256 (lane s j) := by
  simp only [
    kernel_streamCollide.xi_256, FluctuatingMRTLatticeModel.kernel_streamCollide.xi_256,
    kernel_streamCollide.xi_231_lane_fused s j, kernel_streamCollide.xi_230_lane_fused s j,
    mm256_add_pd_apply, mm256_mul_pd_apply, mm256_div_pd_apply, mm256_sqrt_pd_apply,
    mm256_set_pd_apply, mm256_load_pd_apply, mm256_loadu_pd_add, mm256_loadu_pd_sub] <;>
  ring

theorem kernel_streamCollide.xi_257_lane_fused (s : Site K) (j : Fin 4) :
    kernel_streamCollide.xi_257 s j = FluctuatingMRTLatticeModel.kernel_streamCollide.xi_257 (lane s j) := by
  simp only [
    kernel_streamCollide.xi_257, FluctuatingMRTLatticeModel.kernel_streamCollide.xi_257,
    kernel_streamCollide.xi_223_lane_fused s j, kernel_streamCollide.xi_225_lane_fused s j,
    kernel_streamCollide.xi_227_lane_fused s j, kernel_streamCollide.xi_229_lane_fused s j,
    kernel_streamCollide.xi_256_lane_fused s j,
    mm256_add_pd_apply, mm256_mul_pd_apply, mm256_div_pd_apply, mm256_sqrt_pd_apply,
    mm256_set_pd_apply, mm256_load_pd_apply, mm256_loadu_pd_add, mm256_loadu_pd_sub] <;>
  ring

theorem kernel_streamCollide.xi_258_lane_fused (s : Site K) (j : Fin 4) :
    kernel_streamCollide.xi_258 s j = FluctuatingMRTLatticeModel.kernel_streamCollide.xi_258 (lane s j) := by
  simp only [
    kernel_streamCollide.xi_258, FluctuatingMRTLatticeModel.kernel_streamCollide.xi_258,
    kernel_streamCollide.xi_243_lane_fused s j, kernel_streamCollide.xi_190_lane_fused s j,
    kernel_streamCollide.xi_241_lane_fused s j, kernel_streamCollide.xi_244_lane_fused s j,
    kernel_streamCollide.xi_199_lane_fused s j, kernel_streamCollide.xi_242_lane_fused s j,
    kernel_streamCollide.xi_256_lane_fused s j,
    mm256_add_pd_apply, mm256_mul_pd_apply, mm256_div_pd_apply, mm256_sqrt_pd_apply,
    mm256_set_pd_apply, mm256_load_pd_apply, mm256_loadu_pd_add, mm256_loadu_pd_sub] <;>
  ring

theorem kernel_streamCollide.p_0_lane_fused (s : Site K) (j : Fin 4) :
    kernel_streamCollide.p_0 s j = FluctuatingMRTLatticeModel.kernel_streamCollide.p_0 (lane s j) := by
  simp only [
    kernel_streamCollide.p_0, FluctuatingMRTLatticeModel.kernel_streamCollide.p_0,
    kernel_streamCollide.xi_2_lane_fused s j, kernel_streamCollide.xi_32_lane_fused s j,
    mm256_add_pd_apply, mm256_mul_pd_apply, mm256_div_pd_apply, mm256_sqrt_pd_apply,
    mm256_set_pd_apply, mm256_load_pd_apply, mm256_loadu_pd_add, mm256_loadu_pd_sub] <;>
  ring

theorem kernel_streamCollide.p_1_lane_fused (s : Site K) (j : Fin 4) :
    kernel_streamCollide.p_1 s j = FluctuatingMRTLatticeModel.kernel_streamCollide.p_1 (lane s j) := by
  simp only [
    kernel_streamCollide.p_1, FluctuatingMRTLatticeModel.kernel_streamCollide.p_1,
    kernel_streamCollide.xi_33_lane_fused s j,
    mm256_add_pd_apply, mm256_mul_pd_apply, mm256_div_pd_apply, mm256_sqrt_pd_apply,
    mm256_set_pd_apply, mm256_load_pd_apply, mm256_loadu_pd_add, mm256_loadu_pd_sub] <;>
  ring

theorem kernel_streamCollide.xi_208_lane_fused (s : Site K) (j : Fin 4) :
    kernel_streamCollide.xi_208 s j = FluctuatingMRTLatticeModel.kernel_streamCollide.xi_208 (lane s j) := by
  simp only [
    kernel_streamCollide.xi_208, FluctuatingMRTLatticeModel.kernel_streamCollide.xi_208,
    kernel_streamCollide.xi_207_lane_fused s j, kernel_streamCollide.u_0_lane_fused s j,
    kernel_streamCollide.xi_131_lane_fused s j, kernel_streamCollide.p_1_lane_fused s j,
    mm256_add_pd_apply, mm256_mul_pd_apply, mm256_div_pd_apply, mm256_sqrt_pd_apply,
    mm256_set_pd_apply, mm256_load_pd_apply, mm256_loadu_pd_add, mm256_loadu_pd_sub] <;>
  ring

theorem kernel_streamCollide.xi_209_lane_fused (s : Site K) (j : Fin 4) :
    kernel_streamCollide.xi_209 s j = FluctuatingMRTLatticeModel.kernel_streamCollide.xi_209 (lane s j) := by
  simp only [
    kernel_streamCollide.xi_209, FluctuatingMRTLatticeModel.kernel_streamCollide.xi_209,
    kernel_streamCollide.xi_206_lane_fused s j, kernel_streamCollide.xi_208_lane_fused s j,
    mm256_add_pd_apply, mm256_mul_pd_apply, mm256_div_pd_apply, mm256_sqrt_pd_apply,
    mm256_set_pd_apply, mm256_load_pd_apply, mm256_loadu_pd_add, mm256_loadu_pd_sub] <;>
  ring

theorem kernel_streamCollide.xi_210_lane_fused (s : Site K) (j : Fin 4) :
    kernel_streamCollide.xi_210 s j = FluctuatingMRTLatticeModel.kernel_streamCollide.xi_210 (lane s j) := by
  simp only [
    kernel_streamCollide.xi_210, FluctuatingMRTLatticeModel.kernel_streamCollide.xi_210,
    kernel_streamCollide.xi_206_lane_fused s j, kernel_streamCollide.xi_208_lane_fused s j,
    mm256_add_pd_apply, mm256_mul_pd_apply, mm256_div_pd_apply, mm256_sqrt_pd_apply,
    mm256_set_pd_apply, mm256_load_pd_apply, mm256_loadu_pd_add, mm256_loadu_pd_sub] <;>
  ring

theorem kernel_streamCollide.p_2_lane_fused (s : Site K) (j : Fin 4) :
    kernel_streamCollide.p_2 s j = FluctuatingMRTLatticeModel.kernel_streamCollide.p_2 (lane s j) := by
  simp only [
    kernel_streamCollide.p_2, FluctuatingMRTLatticeModel.kernel_streamCollide.p_2,
    kernel_streamCollide.xi_36_lane_fused s j,
    mm256_add_pd_apply, mm256_mul_pd_apply, mm256_div_pd_apply, mm256_sqrt_pd_apply,
    mm256_set_pd_apply, mm256_load_pd_apply, mm256_loadu_pd_add, mm256_loadu_pd_sub] <;>
  ring

theorem kernel_streamCollide.xi_247_lane_fused (s : Site K) (j : Fin 4) :
    kernel_streamCollide.xi_247 s j = FluctuatingMRTLatticeModel.kernel_streamCollide.xi_247 (lane s j) := by
  simp only [
    kernel_streamCollide.xi_247, FluctuatingMRTLatticeModel.kernel_streamCollide.xi_247,
    kernel_streamCollide.xi_207_lane_fused s j, kernel_streamCollide.xi_165_lane_fused s j,
    kernel_streamCollide.u_2_lane_fused s j, kernel_streamCollide.p_2_lane_fused s j,
    mm256_add_pd_apply, mm256_mul_pd_apply, mm256_div_pd_apply, mm256_sqrt_pd_apply,
    mm256_set_pd_apply, mm256_load_pd_apply, mm256_loadu_pd_add, mm256_loadu_pd_sub] <;>
  ring

theorem kernel_streamCollide.xi_248_lane_fused (s : Site K) (j : Fin 4) :
    kernel_streamCollide.xi_248 s j = FluctuatingMRTLatticeModel.kernel_streamCollide.xi_248 (lane s j) := by
  simp only [
    kernel_streamCollide.xi_248, FluctuatingMRTLatticeModel.kernel_streamCollide.xi_248,
    kernel_streamCollide.xi_246_lane_fused s j, kernel_streamCollide.xi_247_lane_fused s j,
    mm256_add_pd_apply, mm256_mul_pd_apply, mm256_div_pd_apply, mm256_sqrt_pd_apply,
    mm256_set_pd_apply, mm256_load_pd_apply, mm256_loadu_pd_add, mm256_loadu_pd_sub] <;>
  ring

theorem kernel_streamCollide.xi_254_lane_fused (s : Site K) (j : Fin 4) :
    kernel_streamCollide.xi_254 s j = FluctuatingMRTLatticeModel.kernel_streamCollide.xi_254 (lane s j) := by
  simp only [
    kernel_streamCollide.xi_254, FluctuatingMRTLatticeModel.kernel_streamCollide.xi_254,
    kernel_streamCollide.xi_246_lane_fused s j, kernel_streamCollide.xi_247_lane_fused s j,
    mm256_add_pd_apply, mm256_mul_pd_apply, mm256_div_pd_apply, mm256_sqrt_pd_apply,
    mm256_set_pd_apply, mm256_load_pd_apply, mm256_loadu_pd_add, mm256_loadu_pd_sub] <;>
  ring

theorem kernel_streamCollide.p_3_lane_fused (s : Site K) (j : Fin 4) :
    kernel_streamCollide.p_3 s j = FluctuatingMRTLatticeModel.kernel_streamCollide.p_3 (lane s j) := by
  simp only [
    kernel_streamCollide.p_3, FluctuatingMRTLatticeModel.kernel_streamCollide.p_3,
    kernel_streamCollide.xi_33_lane_fused s j,
    mm256_add_pd_apply, mm256_mul_pd_apply, mm256_div_pd_apply, mm256_sqrt_pd_apply,
    mm256_set_pd_apply, mm256_load_pd_apply, mm256_loadu_pd_add, mm256_loadu_pd_sub] <;>
  ring

theorem kernel_streamCollide.p_4_lane_fused (s : Site K) (j : Fin 4) :
    kernel_streamCollide.p_4 s j = FluctuatingMRTLatticeModel.kernel_streamCollide.p_4 (lane s j) := by
  simp only [
    kernel_streamCollide.p_4, FluctuatingMRTLatticeModel.kernel_streamCollide.p_4,
    kernel_streamCollide.xi_0_lane_fused s j, kernel_streamCollide.xi_5_lane_fused s j,
    kernel_streamCollide.xi_37_lane_fused s j,
    mm256_add_pd_apply, mm256_mul_pd_apply, mm256_div_pd_apply, mm256_sqrt_pd_apply,
    mm256_set_pd_apply, mm256_load_pd_apply, mm256_loadu_pd_add, mm256_loadu_pd_sub] <;>
  ring

theorem kernel_streamCollide.p_5_lane_fused (s : Site K) (j : Fin 4) :
    kernel_streamCollide.p_5 s j = FluctuatingMRTLatticeModel.kernel_streamCollide.p_5 (lane s j) := by
  simp only [
    kernel_streamCollide.p_5, FluctuatingMRTLatticeModel.kernel_streamCollide.p_5,
    kernel_streamCollide.xi_39_lane_fused s j,
    mm256_add_pd_apply, mm256_mul_pd_apply, mm256_div_pd_apply, mm256_sqrt_pd_apply,
    mm256_set_pd_apply, mm256_load_pd_apply, mm256_loadu_pd_add, mm256_loadu_pd_sub] <;>
  ring

theorem kernel_streamCollide.xi_217_lane_fused (s : Site K) (j : Fin 4) :
    kernel_streamCollide.xi_217 s j = FluctuatingMRTLatticeModel.kernel_streamCollide.xi_217 (lane s j) := by
  simp only [
    kernel_streamCollide.xi_217, FluctuatingMRTLatticeModel.kernel_streamCollide.xi_217,
    kernel_streamCollide.xi_207_lane_fused s j, kernel_streamCollide.xi_131_lane_fused s j,
    kernel_streamCollide.u_2_lane_fused s j, kernel_streamCollide.p_5_lane_fused s j,
    mm256_add_pd_apply, mm256_mul_pd_apply, mm256_div_pd_apply, mm256_sqrt_pd_apply,
    mm256_set_pd_apply, mm256_load_pd_apply, mm256_loadu_pd_add, mm256_loadu_pd_sub] <;>
  ring

theorem kernel_streamCollide.xi_221_lane_fused (s : Site K) (j : Fin 4) :
    kernel_streamCollide.xi_221 s j = FluctuatingMRTLatticeModel.kernel_streamCollide.xi_221 (lane s j) := by
  simp only [
    kernel_streamCollide.xi_221, FluctuatingMRTLatticeModel.kernel_streamCollide.xi_221,
    kernel_streamCollide.xi_216_lane_fused s j, kernel_streamCollide.xi_218_lane_fused s j,
    kernel_streamCollide.xi_215_lane_fused s j, kernel_streamCollide.xi_219_lane_fused s j,
    kernel_streamCollide.xi_220_lane_fused s j, kernel_streamCollide.xi_161_lane_fused s j,
    kernel_streamCollide.xi_217_lane_fused s j,
    mm256_add_pd_apply, mm256_mul_pd_apply, mm256_div_pd_apply, mm256_sqrt_pd_apply,
    mm256_set_pd_apply, mm256_load_pd_apply, mm256_loadu_pd_add, mm256_loadu_pd_sub] <;>
  ring

theorem kernel_streamCollide.xi_240_lane_fused (s : Site K) (j : Fin 4) :
    kernel_streamCollide.xi_240 s j = FluctuatingMRTLatticeModel.kernel_streamCollide.xi_240 (lane s j) := by
  simp only [
    kernel_streamCollide.xi_240, FluctuatingMRTLatticeModel.kernel_streamCollide.xi_240,
    kernel_streamCollide.xi_216_lane_fused s j, kernel_streamCollide.xi_218_lane_fused s j,
    kernel_streamCollide.xi_215_lane_fused s j, kernel_streamCollide.xi_219_lane_fused s j,
    kernel_streamCollide.xi_220_lane_fused s j, kernel_streamCollide.xi_161_lane_fused s j,
    kernel_streamCollide.xi_217_lane_fused s j,
    mm256_add_pd_apply, mm256_mul_pd_apply, mm256_div_pd_apply, mm256_sqrt_pd_apply,
    mm256_set_pd_apply, mm256_load_pd_apply, mm256_loadu_pd_add, mm256_loadu_pd_sub] <;>
  ring

theorem kernel_streamCollide.p_6_lane_fused (s : Site K) (j : Fin 4) :
    kernel_streamCollide.p_6 s j = FluctuatingMRTLatticeModel.kernel_streamCollide.p_6 (lane s j) := by
  simp only [
    kernel_streamCollide.p_6, FluctuatingMRTLatticeModel.kernel_streamCollide.p_6,
    kernel_streamCollide.xi_36_lane_fused s j,
    mm256_add_pd_apply, mm256_mul_pd_apply, mm256_div_pd_apply, mm256_sqrt_pd_apply,
    mm256_set_pd_apply, mm256_load_pd_apply, mm256_loadu_pd_add, mm256_loadu_pd_sub] <;>
  ring

theorem kernel_streamCollide.p_7_lane_fused (s : Site K) (j : Fin 4) :
    kernel_streamCollide.p_7 s j = FluctuatingMRTLatticeModel.kernel_streamCollide.p_7 (lane s j) := by
  simp only [
    kernel_streamCollide.p_7, FluctuatingMRTLatticeModel.kernel_streamCollide.p_7,
    kernel_streamCollide.xi_39_lane_fused s j,
    mm256_add_pd_apply, mm256_mul_pd_apply, mm256_div_pd_apply, mm256_sqrt_pd_apply,
    mm256_set_pd_apply, mm256_load_pd_apply, mm256_loadu_pd_add, mm256_loadu_pd_sub] <;>
  ring

theorem kernel_streamCollide.p_8_lane_fused (s : Site K) (j : Fin 4) :
    kernel_streamCollide.p_8 s j = FluctuatingMRTLatticeModel.kernel_streamCollide.p_8 (lane s j) := by
  simp only [
    kernel_streamCollide.p_8, FluctuatingMRTLatticeModel.kernel_streamCollide.p_8,
    kernel_streamCollide.xi_1_lane_fused s j, kernel_streamCollide.xi_3_lane_fused s j,
    kernel_streamCollide.xi_7_lane_fused s j, kernel_streamCollide.xi_10_lane_fused s j, lane__data_pdfs s j,
    lane_ctr_0 s j, lane_ctr_1 s j, lane_ctr_2 s j,
    mm256_add_pd_apply, mm256_mul_pd_apply, mm256_div_pd_apply, mm256_sqrt_pd_apply,
    mm256_set_pd_apply, mm256_load_pd_apply, mm256_loadu_pd_add, mm256_loadu_pd_sub] <;>
  ring

theorem kernel_streamCollide.forceTerm_0_lane_fused (s : Site K) (j : Fin 4) :
    kernel_streamCollide.forceTerm_0 s j = FluctuatingMRTLatticeModel.kernel_streamCollide.forceTerm_0 (lane s j) := by
  simp only [
    kernel_streamCollide.forceTerm_0, FluctuatingMRTLatticeModel.kernel_streamCollide.forceTerm_0,
    kernel_streamCollide.xi_53_lane_fused s j, kernel_streamCollide.xi_47_lane_fused s j,
    kernel_streamCollide.xi_50_lane_fused s j, kernel_streamCollide.xi_55_lane_fused s j,
    kernel_streamCollide.xi_56_lane_fused s j,
    mm256_add_pd_apply, mm256_mul_pd_apply, mm256_div_pd_apply, mm256_sqrt_pd_apply,
    mm256_set_pd_apply, mm256_load_pd_apply, mm256_loadu_pd_add, mm256_loadu_pd_sub] <;>
  ring

theorem kernel_streamCollide.forceTerm_1_lane_fused (s : Site K) (j : Fin 4) :
    kernel_streamCollide.forceTerm_1 s j = FluctuatingMRTLatticeModel.kernel_streamCollide.forceTerm_1 (lane s j) := by
  simp only [
    kernel_streamCollide.forceTerm_1, FluctuatingMRTLatticeModel.kernel_streamCollide.forceTerm_1,
    kernel_streamCollide.xi_57_lane_fused s j, kernel_streamCollide.xi_64_lane_fused s j,
    mm256_add_pd_apply, mm256_mul_pd_apply, mm256_div_pd_apply, mm256_sqrt_pd_apply,
    mm256_set_pd_apply, mm256_load_pd_apply, mm256_loadu_pd_add, mm256_loadu_pd_sub] <;>
  ring

theorem kernel_streamCollide.forceTerm_2_lane_fused (s : Site K) (j : Fin 4) :
    kernel_streamCollide.forceTerm_2 s j = FluctuatingMRTLatticeModel.kernel_streamCollide.forceTerm_2 (lane s j) := by
  simp only [
    kernel_streamCollide.forceTerm_2, FluctuatingMRTLatticeModel.kernel_streamCollide.forceTerm_2,
    kernel_streamCollide.xi_57_lane_fused s j, kernel_streamCollide.xi_64_lane_fused s j,
    mm256_add_pd_apply, mm256_mul_pd_apply, mm256_div_pd_apply, mm256_sqrt_pd_apply,
    mm256_set_pd_apply, mm256_load_pd_apply, mm256_loadu_pd_add, mm256_loadu_pd_sub] <;>
  ring

theorem kernel_streamCollide.forceTerm_3_lane_fused (s : Site K) (j : Fin 4) :
    kernel_streamCollide.forceTerm_3 s j = FluctuatingMRTLatticeModel.kernel_streamCollide.forceTerm_3 (lane s j) := by
  simp only [
    kernel_streamCollide.forceTerm_3, FluctuatingMRTLatticeModel.kernel_streamCollide.forceTerm_3,
    kernel_streamCollide.xi_65_lane_fused s j, kernel_streamCollide.xi_68_lane_fused s j,
    mm256_add_pd_apply, mm256_mul_pd_apply, mm256_div_pd_apply, mm256_sqrt_pd_apply,
    mm256_set_pd_apply, mm256_load_pd_apply, mm256_loadu_pd_add, mm256_loadu_pd_sub] <;>
  ring

theorem kernel_streamCollide.forceTerm_4_lane_fused (s : Site K) (j : Fin 4) :
    kernel_streamCollide.forceTerm_4 s j = FluctuatingMRTLatticeModel.kernel_streamCollide.forceTerm_4 (lane s j) := by
  simp only [
    kernel_streamCollide.forceTerm_4, FluctuatingMRTLatticeModel.kernel_streamCollide.forceTerm_4,
    kernel_streamCollide.xi_65_lane_fused s j, kernel_streamCollide.xi_68_lane_fused s j,
    mm256_add_pd_apply, mm256_mul_pd_apply, mm256_div_pd_apply, mm256_sqrt_pd_apply,
    mm256_set_pd_apply, mm256_load_pd_apply, mm256_loadu_pd_add, mm256_loadu_pd_sub] <;>
  ring

theorem kernel_streamCollide.forceTerm_5_lane_fused (s : Site K) (j : Fin 4) :
    kernel_streamCollide.forceTerm_5 s j = FluctuatingMRTLatticeModel.kernel_streamCollide.forceTerm_5 (lane s j) := by
  simp only [
    kernel_streamCollide.forceTerm_5, FluctuatingMRTLatticeModel.kernel_streamCollide.forceTerm_5,
    kernel_streamCollide.xi_69_lane_fused s j, kernel_streamCollide.xi_70_lane_fused s j,
    mm256_add_pd_apply, mm256_mul_pd_apply, mm256_div_pd_apply, mm256_sqrt_pd_apply,
    mm256_set_pd_apply, mm256_load_pd_apply, mm256_loadu_pd_add, mm256_loadu_pd_sub] <;>
  ring

theorem kernel_streamCollide.forceTerm_6_lane_fused (s : Site K) (j : Fin 4) :
    kernel_streamCollide.forceTerm_6 s j = FluctuatingMRTLatticeModel.kernel_streamCollide.forceTerm_6 (lane s j) := by
  simp only [
    kernel_streamCollide.forceTerm_6, FluctuatingMRTLatticeModel.kernel_streamCollide.forceTerm_6,
    kernel_streamCollide.xi_69_lane_fused s j, kernel_streamCollide.xi_70_lane_fused s j,
    mm256_add_pd_apply, mm256_mul_pd_apply, mm256_div_pd_apply, mm256_sqrt_pd_apply,
    mm256_set_pd_apply, mm256_load_pd_apply, mm256_loadu_pd_add, mm256_loadu_pd_sub] <;>
  ring

theorem kernel_streamCollide.forceTerm_7_lane_fused (s : Site K) (j : Fin 4) :
    kernel_streamCollide.forceTerm_7 s j = FluctuatingMRTLatticeModel.kernel_streamCollide.forceTerm_7 (lane s j) := by
  simp only [
    kernel_streamCollide.forceTerm_7, FluctuatingMRTLatticeModel.kernel_streamCollide.forceTerm_7,
    kernel_streamCollide.xi_75_lane_fused s j, kernel_streamCollide.xi_77_lane_fused s j,
    kernel_streamCollide.xi_84_lane_fused s j,
    mm256_add_pd_apply, mm256_mul_pd_apply, mm256_div_pd_apply, mm256_sqrt_pd_apply,
    mm256_set_pd_apply, mm256_load_pd_apply, mm256_loadu_pd_add, mm256_loadu_pd_sub] <;>
  ring

theorem kernel_streamCollide.forceTerm_8_lane_fused (s : Site K) (j : Fin 4) :
    kernel_streamCollide.forceTerm_8 s j = FluctuatingMRTLatticeModel.kernel_streamCollide.forceTerm_8 (lane s j) := by
  simp only [
    kernel_streamCollide.forceTerm_8, FluctuatingMRTLatticeModel.kernel_streamCollide.forceTerm_8,
    kernel_streamCollide.xi_74_lane_fused s j, kernel_streamCollide.xi_84_lane_fused s j,
    kernel_streamCollide.xi_85_lane_fused s j,
    mm256_add_pd_apply, mm256_mul_pd_apply, mm256_div_pd_apply, mm256_sqrt_pd_apply,
    mm256_set_pd_apply, mm256_load_pd_apply, mm256_loadu_pd_add, mm256_loadu_pd_sub] <;>
  ring

theorem kernel_streamCollide.forceTerm_9_lane_fused (s : Site K) (j : Fin 4) :
    kernel_streamCollide.forceTerm_9 s j = FluctuatingMRTLatticeModel.kernel_streamCollide.forceTerm_9 (lane s j) := by
  simp only [
    kernel_streamCollide.forceTerm_9, FluctuatingMRTLatticeModel.kernel_streamCollide.forceTerm_9,
    kernel_streamCollide.xi_74_lane_fused s j, kernel_streamCollide.xi_77_lane_fused s j,
    kernel_streamCollide.xi_87_lane_fused s j,
    mm256_add_pd_apply, mm256_mul_pd_apply, mm256_div_pd_apply, mm256_sqrt_pd_apply,
    mm256_set_pd_apply, mm256_load_pd_apply, mm256_loadu_pd_add, mm256_loadu_pd_sub] <;>
  ring

theorem kernel_streamCollide.forceTerm_10_lane_fused (s : Site K) (j : Fin 4) :
    kernel_streamCollide.forceTerm_10 s j = FluctuatingMRTLatticeModel.kernel_streamCollide.forceTerm_10 (lane s j) := by
  simp only [
    kernel_streamCollide.forceTerm_10,
    FluctuatingMRTLatticeModel.kernel_streamCollide.forceTerm_10, kernel_streamCollide.xi_75_lane_fused
    s j, kernel_streamCollide.xi_85_lane_fused s j, kernel_streamCollide.xi_87_lane_fused s j,
    mm256_add_pd_apply, mm256_mul_pd_apply, mm256_div_pd_apply, mm256_sqrt_pd_apply,
    mm256_set_pd_apply, mm256_load_pd_apply, mm256_loadu_pd_add, mm256_loadu_pd_sub] <;>
  ring

theorem kernel_streamCollide.forceTerm_11_lane_fused (s : Site K) (j : Fin 4) :
    kernel_streamCollide.forceTerm_11 s j = FluctuatingMRTLatticeModel.kernel_streamCollide.forceTerm_11 (lane s j) := by
  simp only [
    kernel_streamCollide.forceTerm_11,
    FluctuatingMRTLatticeModel.kernel_streamCollide.forceTerm_11, kernel_streamCollide.xi_83_lane_fused
    s j, kernel_streamCollide.xi_88_lane_fused s j, kernel_streamCollide.xi_92_lane_fused s j,
    mm256_add_pd_apply, mm256_mul_pd_apply, mm256_div_pd_apply, mm256_sqrt_pd_apply,
    mm256_set_pd_apply, mm256_load_pd_apply, mm256_loadu_pd_add, mm256_loadu_pd_sub] <;>
  ring

theorem kernel_streamCollide.forceTerm_12_lane_fused (s : Site K) (j : Fin 4) :
    kernel_streamCollide.forceTerm_12 s j = FluctuatingMRTLatticeModel.kernel_streamCollide.forceTerm_12 (lane s j) := by
  simp only [
    kernel_streamCollide.forceTerm_12,
    FluctuatingMRTLatticeModel.kernel_streamCollide.forceTerm_12, kernel_streamCollide.xi_86_lane_fused
    s j, kernel_streamCollide.xi_92_lane_fused s j, kernel_streamCollide.xi_93_lane_fused s j,
    mm256_add_pd_apply, mm256_mul_pd_apply, mm256_div_pd_apply, mm256_sqrt_pd_apply,
    mm256_set_pd_apply, mm256_load_pd_apply, mm256_loadu_pd_add, mm256_loadu_pd_sub] <;>
  ring

theorem kernel_streamCollide.forceTerm_13_lane_fused (s : Site K) (j : Fin 4) :
    kernel_streamCollide.forceTerm_13 s j = FluctuatingMRTLatticeModel.kernel_streamCollide.forceTerm_13 (lane s j) := by
  simp only [
    kernel_streamCollide.forceTerm_13,
    FluctuatingMRTLatticeModel.kernel_streamCollide.forceTerm_13, kernel_streamCollide.xi_77_lane_fused
    s j, kernel_streamCollide.xi_95_lane_fused s j, kernel_streamCollide.xi_97_lane_fused s j,
    mm256_add_pd_apply, mm256_mul_pd_apply, mm256_div_pd_apply, mm256_sqrt_pd_apply,
    mm256_set_pd_apply, mm256_load_pd_apply, mm256_loadu_pd_add, mm256_loadu_pd_sub] <;>
  ring

theorem kernel_streamCollide.forceTerm_14_lane_fused (s : Site K) (j : Fin 4) :
    kernel_streamCollide.forceTerm_14 s j = FluctuatingMRTLatticeModel.kernel_streamCollide.forceTerm_14 (lane s j) := by
  simp only [
    kernel_streamCollide.forceTerm_14,
    FluctuatingMRTLatticeModel.kernel_streamCollide.forceTerm_14, kernel_streamCollide.xi_85_lane_fused
    s j, kernel_streamCollide.xi_94_lane_fused s j, kernel_streamCollide.xi_97_lane_fused s j,
    mm256_add_pd_apply, mm256_mul_pd_apply, mm256_div_pd_apply, mm256_sqrt_pd_apply,
    mm256_set_pd_apply, mm256_load_pd_apply, mm256_loadu_pd_add, mm256_loadu_pd_sub] <;>
  ring

theorem kernel_streamCollide.forceTerm_15_lane_fused (s : Site K) (j : Fin 4) :
    kernel_streamCollide.forceTerm_15 s j = FluctuatingMRTLatticeModel.kernel_streamCollide.forceTerm_15 (lane s j) := by
  simp only [
    kernel_streamCollide.forceTerm_15,
    FluctuatingMRTLatticeModel.kernel_streamCollide.forceTerm_15, kernel_streamCollide.xi_83_lane_fused
    s j, kernel_streamCollide.xi_93_lane_fused s j, kernel_streamCollide.xi_99_lane_fused s j,
    mm256_add_pd_apply, mm256_mul_pd_apply, mm256_div_pd_apply, mm256_sqrt_pd_apply,
    mm256_set_pd_apply, mm256_load_pd_apply, mm256_loadu_pd_add, mm256_loadu_pd_sub] <;>
  ring

theorem kernel_streamCollide.forceTerm_16_lane_fused (s : Site K) (j : Fin 4) :
    kernel_streamCollide.forceTerm_16 s j = FluctuatingMRTLatticeModel.kernel_streamCollide.forceTerm_16 (lane s j) := by
  simp only [
    kernel_streamCollide.forceTerm_16,
    FluctuatingMRTLatticeModel.kernel_streamCollide.forceTerm_16, kernel_streamCollide.xi_86_lane_fused
    s j, kernel_streamCollide.xi_88_lane_fused s j, kernel_streamCollide.xi_99_lane_fused s j,
    mm256_add_pd_apply, mm256_mul_pd_apply, mm256_div_pd_apply, mm256_sqrt_pd_apply,
    mm256_set_pd_apply, mm256_load_pd_apply, mm256_loadu_pd_add, mm256_loadu_pd_sub] <;>
  ring

theorem kernel_streamCollide.forceTerm_17_lane_fused (s : Site K) (j : Fin 4) :
    kernel_streamCollide.forceTerm_17 s j = FluctuatingMRTLatticeModel.kernel_streamCollide.forceTerm_17 (lane s j) := by
  simp only [
    kernel_streamCollide.forceTerm_17,
    FluctuatingMRTLatticeModel.kernel_streamCollide.forceTerm_17, kernel_streamCollide.xi_77_lane_fused
    s j, kernel_streamCollide.xi_94_lane_fused s j, kernel_streamCollide.xi_100_lane_fused s j,
    mm256_add_pd_apply, mm256_mul_pd_apply, mm256_div_pd_apply, mm256_sqrt_pd_apply,
    mm256_set_pd_apply, mm256_load_pd_apply, mm256_loadu_pd_add, mm256_loadu_pd_sub] <;>
  ring

theorem kernel_streamCollide.forceTerm_18_lane_fused (s : Site K) (j : Fin 4) :
    kernel_streamCollide.forceTerm_18 s j = FluctuatingMRTLatticeModel.kernel_streamCollide.forceTerm_18 (lane s j) := by
  simp only [
    kernel_streamCollide.forceTerm_18,
    FluctuatingMRTLatticeModel.kernel_streamCollide.forceTerm_18, kernel_streamCollide.xi_85_lane_fused
    s j, kernel_streamCollide.xi_95_lane_fused s j, kernel_streamCollide.xi_100_lane_fused s j,
    mm256_add_pd_apply, mm256_mul_pd_apply, mm256_div_pd_apply, mm256_sqrt_pd_apply,
    mm256_set_pd_apply, mm256_load_pd_apply, mm256_loadu_pd_add, mm256_loadu_pd_sub] <;>
  ring

theorem kernel_streamCollide.store_0_lane_fused (s : Site K) (j : Fin 4) :
    kernel_streamCollide.store_0 s j = FluctuatingMRTLatticeModel.kernel_streamCollide.store_0 (lane s j) := by
  simp only [
    kernel_streamCollide.store_0, FluctuatingMRTLatticeModel.kernel_streamCollide.store_0,
    kernel_streamCollide.xi_110_lane_fused s j, kernel_streamCollide.xi_113_lane_fused s j,
    kernel_streamCollide.xi_127_lane_fused s j, kernel_streamCollide.xi_103_lane_fused s j,
    kernel_streamCollide.xi_104_lane_fused s j, kernel_streamCollide.xi_106_lane_fused s j,
    kernel_streamCollide.xi_107_lane_fused s j, kernel_streamCollide.xi_123_lane_fused s j,
    kernel_streamCollide.forceTerm_0_lane_fused s j, lane__data_pdfs s j, lane_ctr_0 s j, lane_ctr_1 s
    j, lane_ctr_2 s j,
    mm256_add_pd_apply, mm256_mul_pd_apply, mm256_div_pd_apply, mm256_sqrt_pd_apply,
    mm256_set_pd_apply, mm256_load_pd_apply, mm256_loadu_pd_add, mm256_loadu_pd_sub] <;>
  ring

theorem kernel_streamCollide.store_1_lane_fused (s : Site K) (j : Fin 4) :
    kernel_streamCollide.store_1 s j = FluctuatingMRTLatticeModel.kernel_streamCollide.store_1 (lane s j) := by
  simp only [
    kernel_streamCollide.store_1, FluctuatingMRTLatticeModel.kernel_streamCollide.store_1,
    kernel_streamCollide.xi_130_lane_fused s j, kernel_streamCollide.xi_139_lane_fused s j,
    kernel_streamCollide.xi_150_lane_fused s j, kernel_streamCollide.xi_134_lane_fused s j,
    kernel_streamCollide.xi_163_lane_fused s j, kernel_streamCollide.forceTerm_1_lane_fused s j,
    lane__data_pdfs s j, lane_ctr_0 s j, lane_ctr_1 s j, lane_ctr_2 s j,
    mm256_add_pd_apply, mm256_mul_pd_apply, mm256_div_pd_apply, mm256_sqrt_pd_apply,
    mm256_set_pd_apply, mm256_load_pd_apply, mm256_loadu_pd_add, mm256_loadu_pd_sub] <;>
  ring

theorem kernel_streamCollide.store_2_lane_fused (s : Site K) (j : Fin 4) :
    kernel_streamCollide.store_2 s j = FluctuatingMRTLatticeModel.kernel_streamCollide.store_2 (lane s j) := by
  simp only [
    kernel_streamCollide.store_2, FluctuatingMRTLatticeModel.kernel_streamCollide.store_2,
    kernel_streamCollide.xi_130_lane_fused s j, kernel_streamCollide.xi_139_lane_fused s j,
    kernel_streamCollide.xi_164_lane_fused s j, kernel_streamCollide.xi_134_lane_fused s j,
    kernel_streamCollide.xi_163_lane_fused s j, kernel_streamCollide.forceTerm_2_lane_fused s j,
    lane__data_pdfs s j, lane_ctr_0 s j, lane_ctr_1 s j, lane_ctr_2 s j,
    mm256_add_pd_apply, mm256_mul_pd_apply, mm256_div_pd_apply, mm256_sqrt_pd_apply,
    mm256_set_pd_apply, mm256_load_pd_apply, mm256_loadu_pd_add, mm256_loadu_pd_sub] <;>
  ring

theorem kernel_streamCollide.store_3_lane_fused (s : Site K) (j : Fin 4) :
    kernel_streamCollide.store_3 s j = FluctuatingMRTLatticeModel.kernel_streamCollide.store_3 (lane s j) := by
  simp only [
    kernel_streamCollide.store_3, FluctuatingMRTLatticeModel.kernel_streamCollide.store_3,
    kernel_streamCollide.xi_169_lane_fused s j, kernel_streamCollide.xi_171_lane_fused s j,
    kernel_streamCollide.xi_176_lane_fused s j, kernel_streamCollide.xi_167_lane_fused s j,
    kernel_streamCollide.xi_177_lane_fused s j, kernel_streamCollide.forceTerm_3_lane_fused s j,
    lane__data_pdfs s j, lane_ctr_0 s j, lane_ctr_1 s j, lane_ctr_2 s j,
    mm256_add_pd_apply, mm256_mul_pd_apply, mm256_div_pd_apply, mm256_sqrt_pd_apply,
    mm256_set_pd_apply, mm256_load_pd_apply, mm256_loadu_pd_add, mm256_loadu_pd_sub] <;>
  ring

theorem kernel_streamCollide.store_4_lane_fused (s : Site K) (j : Fin 4) :
    kernel_streamCollide.store_4 s j = FluctuatingMRTLatticeModel.kernel_streamCollide.store_4 (lane s j) := by
  simp only [
    kernel_streamCollide.store_4, FluctuatingMRTLatticeModel.kernel_streamCollide.store_4,
    kernel_streamCollide.xi_169_lane_fused s j, kernel_streamCollide.xi_171_lane_fused s j,
    kernel_streamCollide.xi_178_lane_fused s j, kernel_streamCollide.xi_167_lane_fused s j,
    kernel_streamCollide.xi_177_lane_fused s j, kernel_streamCollide.forceTerm_4_lane_fused s j,
    lane__data_pdfs s j, lane_ctr_0 s j, lane_ctr_1 s j, lane_ctr_2 s j,
    mm256_add_pd_apply, mm256_mul_pd_apply, mm256_div_pd_apply, mm256_sqrt_pd_apply,
    mm256_set_pd_apply, mm256_load_pd_apply, mm256_loadu_pd_add, mm256_loadu_pd_sub] <;>
  ring

theorem kernel_streamCollide.store_5_lane_fused (s : Site K) (j : Fin 4) :
    kernel_streamCollide.store_5 s j = FluctuatingMRTLatticeModel.kernel_streamCollide.store_5 (lane s j) := by
  simp only [
    kernel_streamCollide.store_5, FluctuatingMRTLatticeModel.kernel_streamCollide.store_5,
    kernel_streamCollide.xi_181_lane_fused s j, kernel_streamCollide.xi_185_lane_fused s j,
    kernel_streamCollide.xi_190_lane_fused s j, kernel_streamCollide.xi_183_lane_fused s j,
    kernel_streamCollide.xi_191_lane_fused s j, kernel_streamCollide.forceTerm_5_lane_fused s j,
    lane__data_pdfs s j, lane_ctr_0 s j, lane_ctr_1 s j, lane_ctr_2 s j,
    mm256_add_pd_apply, mm256_mul_pd_apply, mm256_div_pd_apply, mm256_sqrt_pd_apply,
    mm256_set_pd_apply, mm256_load_pd_apply, mm256_loadu_pd_add, mm256_loadu_pd_sub] <;>
  ring

theorem kernel_streamCollide.store_6_lane_fused (s : Site K) (j : Fin 4) :
    kernel_streamCollide.store_6 s j = FluctuatingMRTLatticeModel.kernel_streamCollide.store_6 (lane s j) := by
  simp only [
    kernel_streamCollide.store_6, FluctuatingMRTLatticeModel.kernel_streamCollide.store_6,
    kernel_streamCollide.xi_181_lane_fused s j, kernel_streamCollide.xi_185_lane_fused s j,
    kernel_streamCollide.xi_192_lane_fused s j, kernel_streamCollide.xi_183_lane_fused s j,
    kernel_streamCollide.xi_191_lane_fused s j, kernel_streamCollide.forceTerm_6_lane_fused s j,
    lane__data_pdfs s j, lane_ctr_0 s j, lane_ctr_1 s j, lane_ctr_2 s j,
    mm256_add_pd_apply, mm256_mul_pd_apply, mm256_div_pd_apply, mm256_sqrt_pd_apply,
    mm256_set_pd_apply, mm256_load_pd_apply, mm256_loadu_pd_add, mm256_loadu_pd_sub] <;>
  ring

theorem kernel_streamCollide.store_7_lane_fused (s : Site K) (j : Fin 4) :
    kernel_streamCollide.store_7 s j = FluctuatingMRTLatticeModel.kernel_streamCollide.store_7 (lane s j) := by
  simp only [
    kernel_streamCollide.store_7, FluctuatingMRTLatticeModel.kernel_streamCollide.store_7,
    kernel_streamCollide.xi_201_lane_fused s j, kernel_streamCollide.xi_205_lane_fused s j,
    kernel_streamCollide.xi_209_lane_fused s j, kernel_streamCollide.forceTerm_7_lane_fused s j,
    lane__data_pdfs s j, lane_ctr_0 s j, lane_ctr_1 s j, lane_ctr_2 s j,
    mm256_add_pd_apply, mm256_mul_pd_apply, mm256_div_pd_apply, mm256_sqrt_pd_apply,
    mm256_set_pd_apply, mm256_load_pd_apply, mm256_loadu_pd_add, mm256_loadu_pd_sub] <;>
  ring

theorem kernel_streamCollide.store_8_lane_fused (s : Site K) (j : Fin 4) :
    kernel_streamCollide.store_8 s j = FluctuatingMRTLatticeModel.kernel_streamCollide.store_8 (lane s j) := by
  simp only [
    kernel_streamCollide.store_8, FluctuatingMRTLatticeModel.kernel_streamCollide.store_8,
    kernel_streamCollide.xi_201_lane_fused s j, kernel_streamCollide.xi_212_lane_fused s j,
    kernel_streamCollide.xi_210_lane_fused s j, kernel_streamCollide.forceTerm_8_lane_fused s j,
    lane__data_pdfs s j, lane_ctr_0 s j, lane_ctr_1 s j, lane_ctr_2 s j,
    mm256_add_pd_apply, mm256_mul_pd_apply, mm256_div_pd_apply, mm256_sqrt_pd_apply,
    mm256_set_pd_apply, mm256_load_pd_apply, mm256_loadu_pd_add, mm256_loadu_pd_sub] <;>
  ring

theorem kernel_streamCollide.store_9_lane_fused (s : Site K) (j : Fin 4) :
    kernel_streamCollide.store_9 s j = FluctuatingMRTLatticeModel.kernel_streamCollide.store_9 (lane s j) := by
  simp only [
    kernel_streamCollide.store_9, FluctuatingMRTLatticeModel.kernel_streamCollide.store_9,
    kernel_streamCollide.xi_205_lane_fused s j, kernel_streamCollide.xi_214_lane_fused s j,
    kernel_streamCollide.xi_210_lane_fused s j, kernel_streamCollide.forceTerm_9_lane_fused s j,
    lane__data_pdfs s j, lane_ctr_0 s j, lane_ctr_1 s j, lane_ctr_2 s j,
    mm256_add_pd_apply, mm256_mul_pd_apply, mm256_div_pd_apply, mm256_sqrt_pd_apply,
    mm256_set_pd_apply, mm256_load_pd_apply, mm256_loadu_pd_add, mm256_loadu_pd_sub] <;>
  ring

theorem kernel_streamCollide.store_10_lane_fused (s : Site K) (j : Fin 4) :
    kernel_streamCollide.store_10 s j = FluctuatingMRTLatticeModel.kernel_streamCollide.store_10 (lane s j) := by
  simp only [
    kernel_streamCollide.store_10, FluctuatingMRTLatticeModel.kernel_streamCollide.store_10,
    kernel_streamCollide.xi_212_lane_fused s j, kernel_streamCollide.xi_214_lane_fused s j,
    kernel_streamCollide.xi_209_lane_fused s j, kernel_streamCollide.forceTerm_10_lane_fused s j,
    lane__data_pdfs s j, lane_ctr_0 s j, lane_ctr_1 s j, lane_ctr_2 s j,
    mm256_add_pd_apply, mm256_mul_pd_apply, mm256_div_pd_apply, mm256_sqrt_pd_apply,
    mm256_set_pd_apply, mm256_load_pd_apply, mm256_loadu_pd_add, mm256_loadu_pd_sub] <;>
  ring

theorem kernel_streamCollide.store_11_lane_fused (s : Site K) (j : Fin 4) :
    kernel_streamCollide.store_11 s j = FluctuatingMRTLatticeModel.kernel_streamCollide.store_11 (lane s j) := by
  simp only [
    kernel_streamCollide.store_11, FluctuatingMRTLatticeModel.kernel_streamCollide.store_11,
    kernel_streamCollide.xi_233_lane_fused s j, kernel_streamCollide.xi_238_lane_fused s j,
    kernel_streamCollide.xi_221_lane_fused s j, kernel_streamCollide.forceTerm_11_lane_fused s j,
    lane__data_pdfs s j, lane_ctr_0 s j, lane_ctr_1 s j, lane_ctr_2 s j,
    mm256_add_pd_apply, mm256_mul_pd_apply, mm256_div_pd_apply, mm256_sqrt_pd_apply,
    mm256_set_pd_apply, mm256_load_pd_apply, mm256_loadu_pd_add, mm256_loadu_pd_sub] <;>
  ring

theorem kernel_streamCollide.store_12_lane_fused (s : Site K) (j : Fin 4) :
    kernel_streamCollide.store_12 s j = FluctuatingMRTLatticeModel.kernel_streamCollide.store_12 (lane s j) := by
  simp only [
    kernel_streamCollide.store_12, FluctuatingMRTLatticeModel.kernel_streamCollide.store_12,
    kernel_streamCollide.xi_233_lane_fused s j, kernel_streamCollide.xi_239_lane_fused s j,
    kernel_streamCollide.xi_240_lane_fused s j, kernel_streamCollide.forceTerm_12_lane_fused s j,
    lane__data_pdfs s j, lane_ctr_0 s j, lane_ctr_1 s j, lane_ctr_2 s j,
    mm256_add_pd_apply, mm256_mul_pd_apply, mm256_div_pd_apply, mm256_sqrt_pd_apply,
    mm256_set_pd_apply, mm256_load_pd_apply, mm256_loadu_pd_add, mm256_loadu_pd_sub] <;>
  ring

theorem kernel_streamCollide.store_13_lane_fused (s : Site K) (j : Fin 4) :
    kernel_streamCollide.store_13 s j = FluctuatingMRTLatticeModel.kernel_streamCollide.store_13 (lane s j) := by
  simp only [
    kernel_streamCollide.store_13, FluctuatingMRTLatticeModel.kernel_streamCollide.store_13,
    kernel_streamCollide.xi_245_lane_fused s j, kernel_streamCollide.xi_253_lane_fused s j,
    kernel_streamCollide.xi_248_lane_fused s j, kernel_streamCollide.forceTerm_13_lane_fused s j,
    lane__data_pdfs s j, lane_ctr_0 s j, lane_ctr_1 s j, lane_ctr_2 s j,
    mm256_add_pd_apply, mm256_mul_pd_apply, mm256_div_pd_apply, mm256_sqrt_pd_apply,
    mm256_set_pd_apply, mm256_load_pd_apply, mm256_loadu_pd_add, mm256_loadu_pd_sub] <;>
  ring

theorem kernel_streamCollide.store_14_lane_fused (s : Site K) (j : Fin 4) :
    kernel_streamCollide.store_14 s j = FluctuatingMRTLatticeModel.kernel_streamCollide.store_14 (lane s j) := by
  simp only [
    kernel_streamCollide.store_14, FluctuatingMRTLatticeModel.kernel_streamCollide.store_14,
    kernel_streamCollide.xi_245_lane_fused s j, kernel_streamCollide.xi_255_lane_fused s j,
    kernel_streamCollide.xi_254_lane_fused s j, kernel_streamCollide.forceTerm_14_lane_fused s j,
    lane__data_pdfs s j, lane_ctr_0 s j, lane_ctr_1 s j, lane_ctr_2 s j,
    mm256_add_pd_apply, mm256_mul_pd_apply, mm256_div_pd_apply, mm256_sqrt_pd_apply,
    mm256_set_pd_apply, mm256_load_pd_apply, mm256_loadu_pd_add, mm256_loadu_pd_sub] <;>
  ring

theorem kernel_streamCollide.store_15_lane_fused (s : Site K) (j : Fin 4) :
    kernel_streamCollide.store_15 s j = FluctuatingMRTLatticeModel.kernel_streamCollide.store_15 (lane s j) := by
  simp only [
    kernel_streamCollide.store_15, FluctuatingMRTLatticeModel.kernel_streamCollide.store_15,
    kernel_streamCollide.xi_238_lane_fused s j, kernel_streamCollide.xi_257_lane_fused s j,
    kernel_streamCollide.xi_240_lane_fused s j, kernel_streamCollide.forceTerm_15_lane_fused s j,
    lane__data_pdfs s j, lane_ctr_0 s j, lane_ctr_1 s j, lane_ctr_2 s j,
    mm256_add_pd_apply, mm256_mul_pd_apply, mm256_div_pd_apply, mm256_sqrt_pd_apply,
    mm256_set_pd_apply, mm256_load_pd_apply, mm256_loadu_pd_add, mm256_loadu_pd_sub] <;>
  ring

theorem kernel_streamCollide.store_16_lane_fused (s : Site K) (j : Fin 4) :
    kernel_streamCollide.store_16 s j = FluctuatingMRTLatticeModel.kernel_streamCollide.store_16 (lane s j) := by
  simp only [
    kernel_streamCollide.store_16, FluctuatingMRTLatticeModel.kernel_streamCollide.store_16,
    kernel_streamCollide.xi_239_lane_fused s j, kernel_streamCollide.xi_257_lane_fused s j,
    kernel_streamCollide.xi_221_lane_fused s j, kernel_streamCollide.forceTerm_16_lane_fused s j,
    lane__data_pdfs s j, lane_ctr_0 s j, lane_ctr_1 s j, lane_ctr_2 s j,
    mm256_add_pd_apply, mm256_mul_pd_apply, mm256_div_pd_apply, mm256_sqrt_pd_apply,
    mm256_set_pd_apply, mm256_load_pd_apply, mm256_loadu_pd_add, mm256_loadu_pd_sub] <;>
  ring

theorem kernel_streamCollide.store_17_lane_fused (s : Site K) (j : Fin 4) :
    kernel_streamCollide.store_17 s j = FluctuatingMRTLatticeModel.kernel_streamCollide.store_17 (lane s j) := by
  simp only [
    kernel_streamCollide.store_17, FluctuatingMRTLatticeModel.kernel_streamCollide.store_17,
    kernel_streamCollide.xi_253_lane_fused s j, kernel_streamCollide.xi_258_lane_fused s j,
    kernel_streamCollide.xi_254_lane_fused s j, kernel_streamCollide.forceTerm_17_lane_fused s j,
    lane__data_pdfs s j, lane_ctr_0 s j, lane_ctr_1 s j, lane_ctr_2 s j,
    mm256_add_pd_apply, mm256_mul_pd_apply, mm256_div_pd_apply, mm256_sqrt_pd_apply,
    mm256_set_pd_apply, mm256_load_pd_apply, mm256_loadu_pd_add, mm256_loadu_pd_sub] <;>
  ring

theorem kernel_streamCollide.store_18_lane_fused (s : Site K) (j : Fin 4) :
    kernel_streamCollide.store_18 s j = FluctuatingMRTLatticeModel.kernel_streamCollide.store_18 (lane s j) := by
  simp only [
    kernel_streamCollide.store_18, FluctuatingMRTLatticeModel.kernel_streamCollide.store_18,
    kernel_streamCollide.xi_255_lane_fused s j, kernel_streamCollide.xi_258_lane_fused s j,
    kernel_streamCollide.xi_248_lane_fused s j, kernel_streamCollide.forceTerm_18_lane_fused s j,
    lane__data_pdfs s j, lane_ctr_0 s j, lane_ctr_1 s j, lane_ctr_2 s j,
    mm256_add_pd_apply, mm256_mul_pd_apply, mm256_div_pd_apply, mm256_sqrt_pd_apply,
    mm256_set_pd_apply, mm256_load_pd_apply, mm256_loadu_pd_add, mm256_loadu_pd_sub] <;>
  ring

/-- Lane `j` of the vectorised loop body is the scalar loop body at the cell `ctr_0 + j`. -/
theorem kernel_streamCollide.values_lane_fused (s : Site K) (q : Fin 19) (j : Fin 4) :
    kernel_streamCollide.values s q j = FluctuatingMRTLatticeModel.kernel_streamCollide.values (lane s j) q := by
  revert q
  rw [forall_fin19]
  refine ⟨kernel_streamCollide.store_0_lane_fused s j, kernel_streamCollide.store_1_lane_fused s j,
    kernel_streamCollide.store_2_lane_fused s j, kernel_streamCollide.store_3_lane_fused s j,
    kernel_streamCollide.store_4_lane_fused s j, kernel_streamCollide.store_5_lane_fused s j,
    kernel_streamCollide.store_6_lane_fused s j, kernel_streamCollide.store_7_lane_fused s j,
    kernel_streamCollide.store_8_lane_fused s j, kernel_streamCollide.store_9_lane_fused s j,
    kernel_streamCollide.store_10_lane_fused s j, kernel_streamCollide.store_11_lane_fused s j,
    kernel_streamCollide.store_12_lane_fused s j, kernel_streamCollide.store_13_lane_fused s j,
    kernel_streamCollide.store_14_lane_fused s j, kernel_streamCollide.store_15_lane_fused s j,
    kernel_streamCollide.store_16_lane_fused s j, kernel_streamCollide.store_17_lane_fused s j,
    kernel_streamCollide.store_18_lane_fused s j⟩

theorem kernel_stream.store_0_lane_stream (_data_pdfs : PdfField K) (ctr_0 ctr_1 ctr_2 : Int) (j : Fin 4) :
    kernel_stream.store_0 _data_pdfs ctr_0 ctr_1 ctr_2 j
      = FluctuatingMRTLatticeModel.kernel_stream.store_0 _data_pdfs (ctr_0 + ((j : Nat) : Int)) ctr_1 ctr_2 := by
  simp only [kernel_stream.store_0, FluctuatingMRTLatticeModel.kernel_stream.store_0, mm256_load_pd_apply, mm256_loadu_pd_add, mm256_loadu_pd_sub]

theorem kernel_stream.store_1_lane_stream (_data_pdfs : PdfField K) (ctr_0 ctr_1 ctr_2 : Int) (j : Fin 4) :
    kernel_stream.store_1 _data_pdfs ctr_0 ctr_1 ctr_2 j
      = FluctuatingMRTLatticeModel.kernel_stream.store_1 _data_pdfs (ctr_0 + ((j : Nat) : Int)) ctr_1 ctr_2 := by
  simp only [kernel_stream.store_1, FluctuatingMRTLatticeModel.kernel_stream.store_1, mm256_load_pd_apply, mm256_loadu_pd_add, mm256_loadu_pd_sub]

theorem kernel_stream.store_2_lane_stream (_data_pdfs : PdfField K) (ctr_0 ctr_1 ctr_2 : Int) (j : Fin 4) :
    kernel_stream.store_2 _data_pdfs ctr_0 ctr_1 ctr_2 j
      = FluctuatingMRTLatticeModel.kernel_stream.store_2 _data_pdfs (ctr_0 + ((j : Nat) : Int)) ctr_1 ctr_2 := by
  simp only [kernel_stream.store_2, FluctuatingMRTLatticeModel.kernel_stream.store_2, mm256_load_pd_apply, mm256_loadu_pd_add, mm256_loadu_pd_sub]

theorem kernel_stream.store_3_lane_stream (_data_pdfs : PdfField K) (ctr_0 ctr_1 ctr_2 : Int) (j : Fin 4) :
    kernel_stream.store_3 _data_pdfs ctr_0 ctr_1 ctr_2 j
      = FluctuatingMRTLatticeModel.kernel_stream.store_3 _data_pdfs (ctr_0 + ((j : Nat) : Int)) ctr_1 ctr_2 := by
  simp only [kernel_stream.store_3, FluctuatingMRTLatticeModel.kernel_stream.store_3, mm256_load_pd_apply, mm256_loadu_pd_add, mm256_loadu_pd_sub]

theorem kernel_stream.store_4_lane_stream (_data_pdfs : PdfField K) (ctr_0 ctr_1 ctr_2 : Int) (j : Fin 4) :
    kernel_stream.store_4 _data_pdfs ctr_0 ctr_1 ctr_2 j
      = FluctuatingMRTLatticeModel.kernel_stream.store_4 _data_pdfs (ctr_0 + ((j : Nat) : Int)) ctr_1 ctr_2 := by
  simp only [kernel_stream.store_4, FluctuatingMRTLatticeModel.kernel_stream.store_4, mm256_load_pd_apply, mm256_loadu_pd_add, mm256_loadu_pd_sub]

theorem kernel_stream.store_5_lane_stream (_data_pdfs : PdfField K) (ctr_0 ctr_1 ctr_2 : Int) (j : Fin 4) :
    kernel_stream.store_5 _data_pdfs ctr_0 ctr_1 ctr_2 j
      = FluctuatingMRTLatticeModel.kernel_stream.store_5 _data_pdfs (ctr_0 + ((j : Nat) : Int)) ctr_1 ctr_2 := by
  simp only [kernel_stream.store_5, FluctuatingMRTLatticeModel.kernel_stream.store_5, mm256_load_pd_apply, mm256_loadu_pd_add, mm256_loadu_pd_sub]

theorem kernel_stream.store_6_lane_stream (_data_pdfs : PdfField K) (ctr_0 ctr_1 ctr_2 : Int) (j : Fin 4) :
    kernel_stream.store_6 _data_pdfs ctr_0 ctr_1 ctr_2 j
      = FluctuatingMRTLatticeModel.kernel_stream.store_6 _data_pdfs (ctr_0 + ((j : Nat) : Int)) ctr_1 ctr_2 := by
  simp only [kernel_stream.store_6, FluctuatingMRTLatticeModel.kernel_stream.store_6, mm256_load_pd_apply, mm256_loadu_pd_add, mm256_loadu_pd_sub]

theorem kernel_stream.store_7_lane_stream (_data_pdfs : PdfField K) (ctr_0 ctr_1 ctr_2 : Int) (j : Fin 4) :
    kernel_stream.store_7 _data_pdfs ctr_0 ctr_1 ctr_2 j
      = FluctuatingMRTLatticeModel.kernel_stream.store_7 _data_pdfs (ctr_0 + ((j : Nat) : Int)) ctr_1 ctr_2 := by
  simp only [kernel_stream.store_7, FluctuatingMRTLatticeModel.kernel_stream.store_7, mm256_load_pd_apply, mm256_loadu_pd_add, mm256_loadu_pd_sub]

theorem kernel_stream.store_8_lane_stream (_data_pdfs : PdfField K) (ctr_0 ctr_1 ctr_2 : Int) (j : Fin 4) :
    kernel_stream.store_8 _data_pdfs ctr_0 ctr_1 ctr_2 j
      = FluctuatingMRTLatticeModel.kernel_stream.store_8 _data_pdfs (ctr_0 + ((j : Nat) : Int)) ctr_1 ctr_2 := by
  simp only [kernel_stream.store_8, FluctuatingMRTLatticeModel.kernel_stream.store_8, mm256_load_pd_apply, mm256_loadu_pd_add, mm256_loadu_pd_sub]

theorem kernel_stream.store_9_lane_stream (_data_pdfs : PdfField K) (ctr_0 ctr_1 ctr_2 : Int) (j : Fin 4) :
    kernel_stream.store_9 _data_pdfs ctr_0 ctr_1 ctr_2 j
      = FluctuatingMRTLatticeModel.kernel_stream.store_9 _data_pdfs (ctr_0 + ((j : Nat) : Int)) ctr_1 ctr_2 := by
  simp only [kernel_stream.store_9, FluctuatingMRTLatticeModel.kernel_stream.store_9, mm256_load_pd_apply, mm256_loadu_pd_add, mm256_loadu_pd_sub]

theorem kernel_stream.store_10_lane_stream (_data_pdfs : PdfField K) (ctr_0 ctr_1 ctr_2 : Int) (j : Fin 4) :
    kernel_stream.store_10 _data_pdfs ctr_0 ctr_1 ctr_2 j
      = FluctuatingMRTLatticeModel.kernel_stream.store_10 _data_pdfs (ctr_0 + ((j : Nat) : Int)) ctr_1 ctr_2 := by
  simp only [kernel_stream.store_10, FluctuatingMRTLatticeModel.kernel_stream.store_10, mm256_load_pd_apply, mm256_loadu_pd_add, mm256_loadu_pd_sub]

theorem kernel_stream.store_11_lane_stream (_data_pdfs : PdfField K) (ctr_0 ctr_1 ctr_2 : Int) (j : Fin 4) :
    kernel_stream.store_11 _data_pdfs ctr_0 ctr_1 ctr_2 j
      = FluctuatingMRTLatticeModel.kernel_stream.store_11 _data_pdfs (ctr_0 + ((j : Nat) : Int)) ctr_1 ctr_2 := by
  simp only [kernel_stream.store_11, FluctuatingMRTLatticeModel.kernel_stream.store_11, mm256_load_pd_apply, mm256_loadu_pd_add, mm256_loadu_pd_sub]

theorem kernel_stream.store_12_lane_stream (_data_pdfs : PdfField K) (ctr_0 ctr_1 ctr_2 : Int) (j : Fin 4) :
    kernel_stream.store_12 _data_pdfs ctr_0 ctr_1 ctr_2 j
      = FluctuatingMRTLatticeModel.kernel_stream.store_12 _data_pdfs (ctr_0 + ((j : Nat) : Int)) ctr_1 ctr_2 := by
  simp only [kernel_stream.store_12, FluctuatingMRTLatticeModel.kernel_stream.store_12, mm256_load_pd_apply, mm256_loadu_pd_add, mm256_loadu_pd_sub]

theorem kernel_stream.store_13_lane_stream (_data_pdfs : PdfField K) (ctr_0 ctr_1 ctr_2 : Int) (j : Fin 4) :
    kernel_stream.store_13 _data_pdfs ctr_0 ctr_1 ctr_2 j
      = FluctuatingMRTLatticeModel.kernel_stream.store_13 _data_pdfs (ctr_0 + ((j : Nat) : Int)) ctr_1 ctr_2 := by
  simp only [kernel_stream.store_13, FluctuatingMRTLatticeModel.kernel_stream.store_13, mm256_load_pd_apply, mm256_loadu_pd_add, mm256_loadu_pd_sub]

theorem kernel_stream.store_14_lane_stream (_data_pdfs : PdfField K) (ctr_0 ctr_1 ctr_2 : Int) (j : Fin 4) :
    kernel_stream.store_14 _data_pdfs ctr_0 ctr_1 ctr_2 j
      = FluctuatingMRTLatticeModel.kernel_stream.store_14 _data_pdfs (ctr_0 + ((j : Nat) : Int)) ctr_1 ctr_2 := by
  simp only [kernel_stream.store_14, FluctuatingMRTLatticeModel.kernel_stream.store_14, mm256_load_pd_apply, mm256_loadu_pd_add, mm256_loadu_pd_sub]

theorem kernel_stream.store_15_lane_stream (_data_pdfs : PdfField K) (ctr_0 ctr_1 ctr_2 : Int) (j : Fin 4) :
    kernel_stream.store_15 _data_pdfs ctr_0 ctr_1 ctr_2 j
      = FluctuatingMRTLatticeModel.kernel_stream.store_15 _data_pdfs (ctr_0 + ((j : Nat) : Int)) ctr_1 ctr_2 := by
  simp only [kernel_stream.store_15, FluctuatingMRTLatticeModel.kernel_stream.store_15, mm256_load_pd_apply, mm256_loadu_pd_add, mm256_loadu_pd_sub]

theorem kernel_stream.store_16_lane_stream (_data_pdfs : PdfField K) (ctr_0 ctr_1 ctr_2 : Int) (j : Fin 4) :
    kernel_stream.store_16 _data_pdfs ctr_0 ctr_1 ctr_2 j
      = FluctuatingMRTLatticeModel.kernel_stream.store_16 _data_pdfs (ctr_0 + ((j : Nat) : Int)) ctr_1 ctr_2 := by
  simp only [kernel_stream.store_16, FluctuatingMRTLatticeModel.kernel_stream.store_16, mm256_load_pd_apply, mm256_loadu_pd_add, mm256_loadu_pd_sub]

theorem kernel_stream.store_17_lane_stream (_data_pdfs : PdfField K) (ctr_0 ctr_1 ctr_2 : Int) (j : Fin 4) :
    kernel_stream.store_17 _data_pdfs ctr_0 ctr_1 ctr_2 j
      = FluctuatingMRTLatticeModel.kernel_stream.store_17 _data_pdfs (ctr_0 + ((j : Nat) : Int)) ctr_1 ctr_2 := by
  simp only [kernel_stream.store_17, FluctuatingMRTLatticeModel.kernel_stream.store_17, mm256_load_pd_apply, mm256_loadu_pd_add, mm256_loadu_pd_sub]

theorem kernel_stream.store_18_lane_stream (_data_pdfs : PdfField K) (ctr_0 ctr_1 ctr_2 : Int) (j : Fin 4) :
    kernel_stream.store_18 _data_pdfs ctr_0 ctr_1 ctr_2 j
      = FluctuatingMRTLatticeModel.kernel_stream.store_18 _data_pdfs (ctr_0 + ((j : Nat) : Int)) ctr_1 ctr_2 := by
  simp only [kernel_stream.store_18, FluctuatingMRTLatticeModel.kernel_stream.store_18, mm256_load_pd_apply, mm256_loadu_pd_add, mm256_loadu_pd_sub]

/-- Lane `j` of the vectorised streaming body is the scalar body at the cell `ctr_0 + j`. -/
theorem kernel_stream.values_lane_stream (_data_pdfs : PdfField K) (ctr_0 ctr_1 ctr_2 : Int) (q : Fin 19)
    (j : Fin 4) :
    kernel_stream.values _data_pdfs ctr_0 ctr_1 ctr_2 q j
      = FluctuatingMRTLatticeModel.kernel_stream.values _data_pdfs (ctr_0 + ((j : Nat) : Int)) ctr_1 ctr_2 q := by
  revert q
  rw [forall_fin19]
  refine ⟨kernel_stream.store_0_lane_stream _ _ _ _ j, kernel_stream.store_1_lane_stream _ _ _ _ j,
    kernel_stream.store_2_lane_stream _ _ _ _ j, kernel_stream.store_3_lane_stream _ _ _ _ j,
    kernel_stream.store_4_lane_stream _ _ _ _ j, kernel_stream.store_5_lane_stream _ _ _ _ j,
    kernel_stream.store_6_lane_stream _ _ _ _ j, kernel_stream.store_7_lane_stream _ _ _ _ j,
    kernel_stream.store_8_lane_stream _ _ _ _ j, kernel_stream.store_9_lane_stream _ _ _ _ j,
    kernel_stream.store_10_lane_stream _ _ _ _ j, kernel_stream.store_11_lane_stream _ _ _ _ j,
    kernel_stream.store_12_lane_stream _ _ _ _ j, kernel_stream.store_13_lane_stream _ _ _ _ j,
    kernel_stream.store_14_lane_stream _ _ _ _ j, kernel_stream.store_15_lane_stream _ _ _ _ j,
    kernel_stream.store_16_lane_stream _ _ _ _ j, kernel_stream.store_17_lane_stream _ _ _ _ j,
    kernel_stream.store_18_lane_stream _ _ _ _ j⟩

end FluctuatingMRTLatticeModelAvx

namespace FluctuatingMRTLatticeModel.kernel_stream

theorem values_apply_stream (_data_pdfs : PdfField K) (ctr_0 ctr_1 ctr_2 : Int) :
    values _data_pdfs ctr_0 ctr_1 ctr_2 0 = store_0 _data_pdfs ctr_0 ctr_1 ctr_2 ∧ values
    _data_pdfs ctr_0 ctr_1 ctr_2 1 = store_1 _data_pdfs ctr_0 ctr_1 ctr_2 ∧ values _data_pdfs
    ctr_0 ctr_1 ctr_2 2 = store_2 _data_pdfs ctr_0 ctr_1 ctr_2 ∧ values _data_pdfs ctr_0 ctr_1
    ctr_2 3 = store_3 _data_pdfs ctr_0 ctr_1 ctr_2 ∧ values _data_pdfs ctr_0 ctr_1 ctr_2 4 =
    store_4 _data_pdfs ctr_0 ctr_1 ctr_2 ∧ values _data_pdfs ctr_0 ctr_1 ctr_2 5 = store_5
    _data_pdfs ctr_0 ctr_1 ctr_2 ∧ values _data_pdfs ctr_0 ctr_1 ctr_2 6 = store_6 _data_pdfs
    ctr_0 ctr_1 ctr_2 ∧ values _data_pdfs ctr_0 ctr_1 ctr_2 7 = store_7 _data_pdfs ctr_0 ctr_1
    ctr_2 ∧ values _data_pdfs ctr_0 ctr_1 ctr_2 8 = store_8 _data_pdfs ctr_0 ctr_1 ctr_2 ∧ values
    _data_pdfs ctr_0 ctr_1 ctr_2 9 = store_9 _data_pdfs ctr_0 ctr_1 ctr_2 ∧ values _data_pdfs
    ctr_0 ctr_1 ctr_2 10 = store_10 _data_pdfs ctr_0 ctr_1 ctr_2 ∧ values _data_pdfs ctr_0 ctr_1
    ctr_2 11 = store_11 _data_pdfs ctr_0 ctr_1 ctr_2 ∧ values _data_pdfs ctr_0 ctr_1 ctr_2 12 =
    store_12 _data_pdfs ctr_0 ctr_1 ctr_2 ∧ values _data_pdfs ctr_0 ctr_1 ctr_2 13 = store_13
    _data_pdfs ctr_0 ctr_1 ctr_2 ∧ values _data_pdfs ctr_0 ctr_1 ctr_2 14 = store_14 _data_pdfs
    ctr_0 ctr_1 ctr_2 ∧ values _data_pdfs ctr_0 ctr_1 ctr_2 15 = store_15 _data_pdfs ctr_0 ctr_1
    ctr_2 ∧ values _data_pdfs ctr_0 ctr_1 ctr_2 16 = store_16 _data_pdfs ctr_0 ctr_1 ctr_2 ∧
    values _data_pdfs ctr_0 ctr_1 ctr_2 17 = store_17 _data_pdfs ctr_0 ctr_1 ctr_2 ∧ values
    _data_pdfs ctr_0 ctr_1 ctr_2 18 = store_18 _data_pdfs ctr_0 ctr_1 ctr_2 := by
  refine ⟨rfl, rfl, rfl, rfl, rfl, rfl, rfl, rfl, rfl, rfl, rfl, rfl, rfl, rfl, rfl, rfl, rfl, rfl, rfl⟩

end FluctuatingMRTLatticeModel.kernel_stream

namespace FluctuatingMRTLatticeModel.kernel_streamCollide

theorem values_apply_fused (s : Site K) :
    values s 0 = store_0 s ∧ values s 1 = store_1 s ∧ values s 2 = store_2 s ∧ values s 3 =
    store_3 s ∧ values s 4 = store_4 s ∧ values s 5 = store_5 s ∧ values s 6 = store_6 s ∧ values
    s 7 = store_7 s ∧ values s 8 = store_8 s ∧ values s 9 = store_9 s ∧ values s 10 = store_10 s ∧
    values s 11 = store_11 s ∧ values s 12 = store_12 s ∧ values s 13 = store_13 s ∧ values s 14 =
    store_14 s ∧ values s 15 = store_15 s ∧ values s 16 = store_16 s ∧ values s 17 = store_17 s ∧
    values s 18 = store_18 s := by
  refine ⟨rfl, rfl, rfl, rfl, rfl, rfl, rfl, rfl, rfl, rfl, rfl, rfl, rfl, rfl, rfl, rfl, rfl, rfl, rfl⟩

end FluctuatingMRTLatticeModel.kernel_streamCollide

namespace FluctuatingMRTLatticeModel.kernel_collide

/-- A cell that holds only a rest population is pushed by the force: with zero relaxation rates
and `kT = 0`, slot 1 (velocity N) receives one sixth of the y component of the force. -/
theorem forced_site [CharZero K] (s : Site K) (a : K) (hkT : s.kT = 0) (hsqrt : s.sqrt 0 = 0)
    (hb : s.omega_bulk = 0) (he : s.omega_even = 0) (ho : s.omega_odd = 0)
    (hs : s.omega_shear = 0)
    (hf : ∀ q, s._data_pdfs s.ctr_0 s.ctr_1 s.ctr_2 q = if q = 0 then a else 0) :
    values s 1 = 1 / 6 * s._data_force s.ctr_0 s.ctr_1 s.ctr_2 1 := by
  obtain ⟨z_xi_101, z_xi_102, z_xi_103, z_xi_104, z_xi_106, z_xi_107, z_xi_136, z_xi_137, z_xi_138,
      z_xi_139, z_xi_147, z_xi_148, z_xi_149, z_xi_152, z_xi_153, z_xi_154, z_xi_160, z_xi_171,
      z_xi_175, z_xi_185, z_xi_189, z_xi_193, z_xi_196, z_xi_206, z_xi_215, z_xi_219, z_xi_220,
      z_xi_226, z_xi_227, z_xi_228, z_xi_229, z_xi_236, z_xi_237, z_xi_241, z_xi_244, z_xi_246,
      z_xi_251, z_xi_252⟩ :=
    noise_zero s hkT hsqrt
  obtain ⟨v0, v1, v2, v3, v4, v5, v6, v7, v8, v9, v10, v11, v12, v13, v14, v15, v16, v17, v18⟩ := values_apply s
  have f0 : s._data_pdfs s.ctr_0 s.ctr_1 s.ctr_2 0 = a := by rw [hf 0, if_pos rfl]
  have f1 : s._data_pdfs s.ctr_0 s.ctr_1 s.ctr_2 1 = 0 := by
    rw [hf 1, if_neg (by decide)]
  have f2 : s._data_pdfs s.ctr_0 s.ctr_1 s.ctr_2 2 = 0 := by
    rw [hf 2, if_neg (by decide)]
  have f3 : s._data_pdfs s.ctr_0 s.ctr_1 s.ctr_2 3 = 0 := by
    rw [hf 3, if_neg (by decide)]
  have f4 : s._data_pdfs s.ctr_0 s.ctr_1 s.ctr_2 4 = 0 := by
    rw [hf 4, if_neg (by decide)]
  have f5 : s._data_pdfs s.ctr_0 s.ctr_1 s.ctr_2 5 = 0 := by
    rw [hf 5, if_neg (by decide)]
  have f6 : s._data_pdfs s.ctr_0 s.ctr_1 s.ctr_2 6 = 0 := by
    rw [hf 6, if_neg (by decide)]
  have f7 : s._data_pdfs s.ctr_0 s.ctr_1 s.ctr_2 7 = 0 := by
    rw [hf 7, if_neg (by decide)]
  have f8 : s._data_pdfs s.ctr_0 s.ctr_1 s.ctr_2 8 = 0 := by
    rw [hf 8, if_neg (by decide)]
  have f9 : s._data_pdfs s.ctr_0 s.ctr_1 s.ctr_2 9 = 0 := by
    rw [hf 9, if_neg (by decide)]
  have f10 : s._data_pdfs s.ctr_0 s.ctr_1 s.ctr_2 10 = 0 := by
    rw [hf 10, if_neg (by decide)]
  have f11 : s._data_pdfs s.ctr_0 s.ctr_1 s.ctr_2 11 = 0 := by
    rw [hf 11, if_neg (by decide)]
  have f12 : s._data_pdfs s.ctr_0 s.ctr_1 s.ctr_2 12 = 0 := by
    rw [hf 12, if_neg (by decide)]
  have f13 : s._data_pdfs s.ctr_0 s.ctr_1 s.ctr_2 13 = 0 := by
    rw [hf 13, if_neg (by decide)]
  have f14 : s._data_pdfs s.ctr_0 s.ctr_1 s.ctr_2 14 = 0 := by
    rw [hf 14, if_neg (by decide)]
  have f15 : s._data_pdfs s.ctr_0 s.ctr_1 s.ctr_2 15 = 0 := by
    rw [hf 15, if_neg (by decide)]
  have f16 : s._data_pdfs s.ctr_0 s.ctr_1 s.ctr_2 16 = 0 := by
    rw [hf 16, if_neg (by decide)]
  have f17 : s._data_pdfs s.ctr_0 s.ctr_1 s.ctr_2 17 = 0 := by
    rw [hf 17, if_neg (by decide)]
  have f18 : s._data_pdfs s.ctr_0 s.ctr_1 s.ctr_2 18 = 0 := by
    rw [hf 18, if_neg (by decide)]
  have e_u_0 : u_0 s = 0 := by
    simp only [
      xi_259, xi_262, xi_265, xi_266, xi_268, xi_269, xi_272, xi_274, xi_275, xi_276, xi_0, xi_1,
      xi_2, xi_12, xi_13, xi_14, xi_15, xi_16, xi_17, xi_18, xi_19, vel0Term, u_0,
      f0, f1, f2, f3, f4, f5, f6, f7, f8, f9, f10, f11, f12, f13, f14, f15, f16, f17, f18,
      zero_mul, mul_zero, neg_zero, add_zero, zero_add, sub_zero, sub_self] <;>
    ring
  have e_u_1 : u_1 s = 0 := by
    simp only [
      xi_259, xi_260, xi_264, xi_265, xi_269, xi_270, xi_274, xi_278, xi_279, xi_280, xi_3, xi_4,
      xi_5, xi_17, xi_20, xi_21, xi_22, xi_23, xi_24, xi_25, vel1Term, u_1,
      f0, f1, f2, f3, f4, f5, f6, f7, f8, f9, f10, f11, f12, f13, f14, f15, f16, f17, f18, e_u_0,
      zero_mul, mul_zero, neg_zero, add_zero, zero_add, sub_zero, sub_self] <;>
    ring
  have e_u_2 : u_2 s = 0 := by
    simp only [
      xi_261, xi_262, xi_264, xi_267, xi_270, xi_272, xi_275, xi_276, xi_279, xi_280, xi_6, xi_7,
      xi_12, xi_24, xi_26, xi_27, xi_28, xi_29, xi_30, vel2Term, u_2,
      f0, f1, f2, f3, f4, f5, f6, f7, f8, f9, f10, f11, f12, f13, f14, f15, f16, f17, f18, e_u_0,
      e_u_1,
      zero_mul, mul_zero, neg_zero, add_zero, zero_add, sub_zero, sub_self] <;>
    ring
  rw [v1]
  simp only [
    xi_51, xi_52, xi_58, xi_63, xi_129, xi_144, rr_0, xi_133, xi_259, xi_260, xi_261, xi_262,
    xi_263, xi_264, xi_265, xi_266, xi_267, xi_268, xi_269, xi_270, xi_271, xi_272, xi_273,
    xi_274, xi_275, xi_276, xi_277, xi_278, xi_279, xi_280, xi_1, xi_3, xi_4, xi_5, xi_9, xi_12,
    xi_15, xi_16, xi_17, xi_18, xi_19, xi_20, xi_22, xi_23, xi_24, xi_25, xi_26, xi_27, xi_28,
    xi_31, xi_37, xi_38, xi_57, xi_108, xi_109, xi_110, xi_111, xi_112, xi_113, xi_116, xi_118,
    xi_121, xi_122, xi_124, xi_125, xi_126, xi_127, xi_128, xi_130, xi_140, xi_141, xi_142,
    xi_143, xi_145, vel1Term, xi_150, xi_158, xi_41, xi_42, xi_48, xi_114, xi_43, xi_44, xi_49,
    xi_119, xi_120, xi_131, xi_132, xi_134, xi_45, xi_46, xi_50, xi_54, xi_55, xi_56, xi_59,
    xi_60, xi_61, xi_62, xi_64, xi_115, xi_155, xi_156, xi_157, xi_159, xi_161, xi_162, xi_163,
    forceTerm_1, store_1,
    z_xi_101, z_xi_102, z_xi_103, z_xi_104, z_xi_106, z_xi_107, z_xi_136, z_xi_137, z_xi_138,
    z_xi_139, z_xi_147, z_xi_148, z_xi_149, z_xi_152, z_xi_153, z_xi_154, z_xi_160, z_xi_171,
    z_xi_175, z_xi_185, z_xi_189, z_xi_193, z_xi_196, z_xi_206, z_xi_215, z_xi_219, z_xi_220,
    z_xi_226, z_xi_227, z_xi_228, z_xi_229, z_xi_236, z_xi_237, z_xi_241, z_xi_244, z_xi_246,
    z_xi_251, z_xi_252,
    f0, f1, f2, f3, f4, f5, f6, f7, f8, f9, f10, f11, f12, f13, f14, f15, f16, f17, f18, e_u_0,
    e_u_1, e_u_2,
    hb, he, ho, hs, zero_mul, mul_zero, neg_zero, add_zero, zero_add, sub_zero, sub_self] <;>
  ring

end FluctuatingMRTLatticeModel.kernel_collide

/-! ## Closed forms of the kernels -/

section ClosedForms

variable (sqrt : K → K) (philox_double2 : Philox K) (_data_force : ForceField K)
  (_data_pdfs _data_pdfs_tmp : PdfField K) (_size_force_0 _size_force_1 _size_force_2 : Int)
  (_size_pdfs_0 _size_pdfs_1 _size_pdfs_2 : Int)
  (block_offset_0 block_offset_1 block_offset_2 : Nat)
  (kT omega_bulk omega_even omega_odd omega_shear : K) (seed time_step : Nat)

namespace FluctuatingMRTLatticeModel

/-- The collision of a cell reads the population field at that cell only. -/
theorem kernel_collide.values_local (f f' : PdfField K) (x y z : Int)
    (h : ∀ q, f x y z q = f' x y z q) (q : Fin 19) :
    kernel_collide.values ⟨sqrt, philox_double2, _data_force, f,
        block_offset_0, block_offset_1, block_offset_2,
        kT, omega_bulk, omega_even, omega_odd, omega_shear, seed, time_step, x, y, z⟩ q =
    kernel_collide.values ⟨sqrt, philox_double2, _data_force, f',
        block_offset_0, block_offset_1, block_offset_2,
        kT, omega_bulk, omega_even, omega_odd, omega_shear, seed, time_step, x, y, z⟩ q :=
  congrFun (kernel_collide.values_eq_of_reads
    ⟨sqrt, philox_double2, _data_force, f, block_offset_0, block_offset_1, block_offset_2,
        kT, omega_bulk, omega_even, omega_odd, omega_shear, seed, time_step, x, y, z⟩
    ⟨sqrt, philox_double2, _data_force, f', block_offset_0, block_offset_1, block_offset_2,
        kT, omega_bulk, omega_even, omega_odd, omega_shear, seed, time_step, x, y, z⟩
    rfl rfl rfl rfl rfl rfl h (fun _ => rfl) rfl rfl rfl rfl rfl rfl rfl rfl) q

/-- The scalar `kernel_collide` rewrites every cell of the box with the collision of its own
populations and leaves every other cell alone. -/
theorem kernel_collide_apply (x y z : Int) (q : Fin 19) :
    kernel_collide sqrt philox_double2 _data_force _data_pdfs
        _size_force_0 _size_force_1 _size_force_2 block_offset_0 block_offset_1 block_offset_2
        kT omega_bulk omega_even omega_odd omega_shear seed time_step x y z q =
      if (0 ≤ x ∧ x < _size_force_0) ∧ (0 ≤ y ∧ y < _size_force_1) ∧ (0 ≤ z ∧ z < _size_force_2)
      then kernel_collide.values ⟨sqrt, philox_double2, _data_force, _data_pdfs,
        block_offset_0, block_offset_1, block_offset_2,
        kT, omega_bulk, omega_even, omega_odd, omega_shear, seed, time_step, x, y, z⟩ q
      else _data_pdfs x y z q := by
  unfold kernel_collide
  exact scalar_nest
    (fun f x y z => kernel_collide.values ⟨sqrt, philox_double2, _data_force, f,
        block_offset_0, block_offset_1, block_offset_2,
        kT, omega_bulk, omega_even, omega_odd, omega_shear, seed, time_step, x, y, z⟩)
    (fun f f' x y z h q => kernel_collide.values_local sqrt philox_double2 _data_force
      block_offset_0 block_offset_1 block_offset_2 kT omega_bulk omega_even omega_odd omega_shear
      seed time_step f f' x y z h q)
    0 _size_force_0 0 _size_force_1 0 _size_force_2 _data_pdfs x y z q

/-- The scalar `kernel_streamCollide` writes every interior cell of the box of the destination
and leaves every other cell of the destination alone. -/
theorem kernel_streamCollide_apply (x y z : Int) (q : Fin 19) :
    kernel_streamCollide sqrt philox_double2 _data_force _data_pdfs _data_pdfs_tmp
        _size_force_0 _size_force_1 _size_force_2 block_offset_0 block_offset_1 block_offset_2
        kT omega_bulk omega_even omega_odd omega_shear seed time_step x y z q =
      if (1 ≤ x ∧ x < _size_force_0 - 1) ∧ (1 ≤ y ∧ y < _size_force_1 - 1)
          ∧ (1 ≤ z ∧ z < _size_force_2 - 1)
      then kernel_streamCollide.values ⟨sqrt, philox_double2, _data_force, _data_pdfs,
        block_offset_0, block_offset_1, block_offset_2,
        kT, omega_bulk, omega_even, omega_odd, omega_shear, seed, time_step, x, y, z⟩ q
      else _data_pdfs_tmp x y z q := by
  unfold kernel_streamCollide
  exact scalar_nest
    (fun _ x y z => kernel_streamCollide.values ⟨sqrt, philox_double2, _data_force, _data_pdfs,
        block_offset_0, block_offset_1, block_offset_2,
        kT, omega_bulk, omega_even, omega_odd, omega_shear, seed, time_step, x, y, z⟩)
    (fun _ _ _ _ _ _ _ => rfl)
    1 (_size_force_0 - 1) 1 (_size_force_1 - 1) 1 (_size_force_2 - 1) _data_pdfs_tmp x y z q

/-- The scalar `kernel_stream` writes every interior cell of the box of the destination and
leaves every other cell of the destination alone. -/
theorem kernel_stream_apply (x y z : Int) (q : Fin 19) :
    kernel_stream _data_pdfs _data_pdfs_tmp _size_pdfs_0 _size_pdfs_1 _size_pdfs_2 x y z q =
      if (1 ≤ x ∧ x < _size_pdfs_0 - 1) ∧ (1 ≤ y ∧ y < _size_pdfs_1 - 1)
          ∧ (1 ≤ z ∧ z < _size_pdfs_2 - 1)
      then kernel_stream.values _data_pdfs x y z q
      else _data_pdfs_tmp x y z q := by
  unfold kernel_stream
  exact scalar_nest (fun _ x y z => kernel_stream.values _data_pdfs x y z)
    (fun _ _ _ _ _ _ _ => rfl)
    1 (_size_pdfs_0 - 1) 1 (_size_pdfs_1 - 1) 1 (_size_pdfs_2 - 1) _data_pdfs_tmp x y z q

/-- Each slot of the streaming body is the source population one cell against its velocity. -/
theorem kernel_stream.values_eq (x y z : Int) (q : Fin 19) :
    kernel_stream.values _data_pdfs x y z q = _data_pdfs (x - cx q) (y - cy q) (z - cz q) q := by
  obtain ⟨a0, a1, a2, a3, a4, a5, a6, a7, a8, a9, a10, a11, a12, a13, a14, a15, a16, a17, a18⟩ :=
    cx_apply
  obtain ⟨b0, b1, b2, b3, b4, b5, b6, b7, b8, b9, b10, b11, b12, b13, b14, b15, b16, b17, b18⟩ :=
    cy_apply
  obtain ⟨c0, c1, c2, c3, c4, c5, c6, c7, c8, c9, c10, c11, c12, c13, c14, c15, c16, c17, c18⟩ :=
    cz_apply
  obtain ⟨v0, v1, v2, v3, v4, v5, v6, v7, v8, v9, v10, v11, v12, v13, v14, v15, v16, v17, v18⟩ :=
    kernel_stream.values_apply_stream _data_pdfs x y z
  revert q
  rw [forall_fin19, v0, v1, v2, v3, v4, v5, v6, v7, v8, v9, v10, v11, v12, v13, v14, v15, v16, v17,
    v18, a0, a1, a2, a3, a4, a5, a6, a7, a8, a9, a10, a11, a12, a13, a14, a15, a16, a17, a18,
    b0, b1, b2, b3, b4, b5, b6, b7, b8, b9, b10, b11, b12, b13, b14, b15, b16, b17, b18,
    c0, c1, c2, c3, c4, c5, c6, c7, c8, c9, c10, c11, c12, c13, c14, c15, c16, c17, c18]
  simp only [kernel_stream.store_0, kernel_stream.store_1, kernel_stream.store_2,
    kernel_stream.store_3, kernel_stream.store_4, kernel_stream.store_5, kernel_stream.store_6,
    kernel_stream.store_7, kernel_stream.store_8, kernel_stream.store_9, kernel_stream.store_10,
    kernel_stream.store_11, kernel_stream.store_12, kernel_stream.store_13,
    kernel_stream.store_14, kernel_stream.store_15, kernel_stream.store_16,
    kernel_stream.store_17, kernel_stream.store_18, sub_zero, sub_neg_eq_add, and_self]

end FluctuatingMRTLatticeModel

namespace FluctuatingMRTLatticeModelAvx

theorem roundUp4_range_zero (n : Int) (hn : 0 ≤ n) :
    (0 : Int) + 4 * ((((roundUp4 n - 0 + 4 - 1) / 4).toNat : Nat) : Int) = roundUp4 n := by
  obtain ⟨h1, h2, h3⟩ := roundUp4_spec n hn
  omega

theorem roundUp4_range_one (n : Int) (hn : 2 ≤ n) :
    (1 : Int) + 4 * ((((roundUp4 (n - 2) + 1 - 1 + 4 - 1) / 4).toNat : Nat) : Int)
      = roundUp4 (n - 2) + 1 := by
  obtain ⟨h1, h2, h3⟩ := roundUp4_spec (n - 2) (by omega)
  omega

/-- The AVX `kernel_collide` rewrites every cell of the box, the x range rounded up to a
multiple of four, with the scalar collision of its own populations. -/
theorem kernel_collide_apply_avx (h0 : 0 ≤ _size_force_0) (x y z : Int) (q : Fin 19) :
    kernel_collide sqrt philox_double2 _data_force _data_pdfs
        _size_force_0 _size_force_1 _size_force_2 block_offset_0 block_offset_1 block_offset_2
        kT omega_bulk omega_even omega_odd omega_shear seed time_step x y z q =
      if (0 ≤ x ∧ x < roundUp4 _size_force_0) ∧ (0 ≤ y ∧ y < _size_force_1)
          ∧ (0 ≤ z ∧ z < _size_force_2)
      then FluctuatingMRTLatticeModel.kernel_collide.values ⟨sqrt, philox_double2, _data_force,
        _data_pdfs, block_offset_0, block_offset_1, block_offset_2,
        kT, omega_bulk, omega_even, omega_odd, omega_shear, seed, time_step, x, y, z⟩ q
      else _data_pdfs x y z q := by
  unfold kernel_collide
  rw [avx_nest
    (fun f x y z => FluctuatingMRTLatticeModel.kernel_collide.values ⟨sqrt, philox_double2,
        _data_force, f, block_offset_0, block_offset_1, block_offset_2,
        kT, omega_bulk, omega_even, omega_odd, omega_shear, seed, time_step, x, y, z⟩)
    (fun f f' x y z h q => FluctuatingMRTLatticeModel.kernel_collide.values_local sqrt
      philox_double2 _data_force block_offset_0 block_offset_1 block_offset_2 kT omega_bulk
      omega_even omega_odd omega_shear seed time_step f f' x y z h q)
    (fun f x y z => kernel_collide.values ⟨sqrt, philox_double2, _data_force, f,
        block_offset_0, block_offset_1, block_offset_2,
        kT, omega_bulk, omega_even, omega_odd, omega_shear, seed, time_step, x, y, z⟩)
    (fun f i j k q l => kernel_collide.values_lane _ q l),
    roundUp4_range_zero _ h0]

/-- The AVX `kernel_streamCollide` writes every interior cell of the box of the destination, the
x range rounded up to a multiple of four, with the value of the scalar loop body. -/
theorem kernel_streamCollide_apply_avx (h0 : 2 ≤ _size_force_0) (x y z : Int) (q : Fin 19) :
    kernel_streamCollide sqrt philox_double2 _data_force _data_pdfs _data_pdfs_tmp
        _size_force_0 _size_force_1 _size_force_2 block_offset_0 block_offset_1 block_offset_2
        kT omega_bulk omega_even omega_odd omega_shear seed time_step x y z q =
      if (1 ≤ x ∧ x < roundUp4 (_size_force_0 - 2) + 1) ∧ (1 ≤ y ∧ y < _size_force_1 - 1)
          ∧ (1 ≤ z ∧ z < _size_force_2 - 1)
      then FluctuatingMRTLatticeModel.kernel_streamCollide.values ⟨sqrt, philox_double2,
        _data_force, _data_pdfs, block_offset_0, block_offset_1, block_offset_2,
        kT, omega_bulk, omega_even, omega_odd, omega_shear, seed, time_step, x, y, z⟩ q
      else _data_pdfs_tmp x y z q := by
  unfold kernel_streamCollide
  rw [avx_nest
    (fun _ x y z => FluctuatingMRTLatticeModel.kernel_streamCollide.values ⟨sqrt, philox_double2,
        _data_force, _data_pdfs, block_offset_0, block_offset_1, block_offset_2,
        kT, omega_bulk, omega_even, omega_odd, omega_shear, seed, time_step, x, y, z⟩)
    (fun _ _ _ _ _ _ _ => rfl)
    (fun _ x y z => kernel_streamCollide.values ⟨sqrt, philox_double2, _data_force, _data_pdfs,
        block_offset_0, block_offset_1, block_offset_2,
        kT, omega_bulk, omega_even, omega_odd, omega_shear, seed, time_step, x, y, z⟩)
    (fun f i j k q l => kernel_streamCollide.values_lane_fused _ q l),
    roundUp4_range_one _ h0]

/-- The AVX `kernel_stream` writes every interior cell of the box of the destination, the x
range rounded up to a multiple of four, with the value of the scalar loop body. -/
theorem kernel_stream_apply_avx (h0 : 2 ≤ _size_pdfs_0) (x y z : Int) (q : Fin 19) :
    kernel_stream _data_pdfs _data_pdfs_tmp _size_pdfs_0 _size_pdfs_1 _size_pdfs_2 x y z q =
      if (1 ≤ x ∧ x < roundUp4 (_size_pdfs_0 - 2) + 1) ∧ (1 ≤ y ∧ y < _size_pdfs_1 - 1)
          ∧ (1 ≤ z ∧ z < _size_pdfs_2 - 1)
      then FluctuatingMRTLatticeModel.kernel_stream.values _data_pdfs x y z q
      else _data_pdfs_tmp x y z q := by
  unfold kernel_stream
  rw [avx_nest
    (fun _ x y z => FluctuatingMRTLatticeModel.kernel_stream.values _data_pdfs x y z)
    (fun _ _ _ _ _ _ _ => rfl)
    (fun _ x y z => kernel_stream.values _data_pdfs x y z)
    (fun f i j k q l => kernel_stream.values_lane_stream _ _ _ _ q l),
    roundUp4_range_one _ h0]

end FluctuatingMRTLatticeModelAvx

end ClosedForms


/-! ## The fused loop body at zero temperature -/

namespace FluctuatingMRTLatticeModel.kernel_streamCollide

/-- With `kT = 0` the values written by the fused loop body do not depend on the generator, the
seed, the time step or the block offsets. -/
theorem values_eq_of_kT_zero_fused (s s' : Site K) (hkT : s.kT = 0) (hkT' : s'.kT = 0)
    (hsqrt : s.sqrt 0 = 0) (h_sqrt : s.sqrt = s'.sqrt) (h_bulk : s.omega_bulk = s'.omega_bulk)
    (h_even : s.omega_even = s'.omega_even) (h_odd : s.omega_odd = s'.omega_odd)
    (h_shear : s.omega_shear = s'.omega_shear)
    (h_pdfs : ∀ q, kernel_stream.values s._data_pdfs s.ctr_0 s.ctr_1 s.ctr_2 q
      = kernel_stream.values s'._data_pdfs s'.ctr_0 s'.ctr_1 s'.ctr_2 q)
    (h_force : ∀ a, s._data_force s.ctr_0 s.ctr_1 s.ctr_2 a
      = s'._data_force s'.ctr_0 s'.ctr_1 s'.ctr_2 a) :
    values s = values s' := by
  rw [values_pull, values_pull]
  exact kernel_collide.values_eq_of_kT_zero (pulled s) (pulled s') hkT hkT' hsqrt h_sqrt h_bulk
    h_even h_odd h_shear h_pdfs h_force

/-- With `kT = 0` the four noise amplitudes of the fused loop body vanish. -/
theorem amplitudes_zero_fused (s : Site K) (hkT : s.kT = 0) (hsqrt : s.sqrt 0 = 0) :
    xi_102 s = 0 ∧ s.sqrt (xi_101 s * (-((xi_40 s + 1) * (xi_40 s + 1)) + 1)) = 0
      ∧ xi_136 s = 0 ∧ xi_152 s = 0 := by
  have h101 : xi_101 s = 0 := by simp only [xi_101, hkT, zero_mul, mul_zero]
  refine ⟨?_, ?_, ?_, ?_⟩
  · simp only [xi_102, h101, zero_mul, hsqrt]
  · simp only [h101, zero_mul, hsqrt]
  · simp only [xi_136, h101, zero_mul, hsqrt]
  · simp only [xi_152, h101, zero_mul, hsqrt]

end FluctuatingMRTLatticeModel.kernel_streamCollide

namespace FluctuatingMRTLatticeModel.kernel_collide

/-- With `kT = 0` the four noise amplitudes of the collision vanish. -/
theorem amplitudes_zero (s : Site K) (hkT : s.kT = 0) (hsqrt : s.sqrt 0 = 0) :
    xi_102 s = 0 ∧ s.sqrt (xi_101 s * (-((xi_40 s + 1) * (xi_40 s + 1)) + 1)) = 0
      ∧ xi_136 s = 0 ∧ xi_152 s = 0 := by
  have h101 : xi_101 s = 0 := by simp only [xi_101, hkT, zero_mul, mul_zero]
  refine ⟨?_, ?_, ?_, ?_⟩
  · simp only [xi_102, h101, zero_mul, hsqrt]
  · simp only [h101, zero_mul, hsqrt]
  · simp only [xi_136, h101, zero_mul, hsqrt]
  · simp only [xi_152, h101, zero_mul, hsqrt]

end FluctuatingMRTLatticeModel.kernel_collide


/-! ## Closed forms of the sweeps -/

namespace FluctuatingMRTLatticeModel.Sweep

/-- After `Sweep::stream` every cell of the swept region holds the populations pulled from its
neighbours. -/
theorem stream_data (block : Block K) (g : Nat) (x y z : Int) (q : Fin 19)
    (h : (-(g : Int) ≤ x ∧ x < block.pdfs.xSize + g) ∧ (-(g : Int) ≤ y ∧ y < block.pdfs.ySize + g)
      ∧ (-(g : Int) ≤ z ∧ z < block.pdfs.zSize + g)) :
    (stream block g).pdfs.data x y z q
      = block.pdfs.data (x - cx q) (y - cy q) (z - cz q) q := by
  show kernel_stream _ _ _ _ _ _ _ _ _ = _
  rw [kernel_stream_apply, if_pos (by omega), kernel_stream.values_eq]
  show block.pdfs.data _ _ _ q = block.pdfs.data _ _ _ q
  congr 1 <;> omega

/-- A cell outside the swept region holds after `Sweep::stream` what the temporary field held. -/
theorem stream_data_outside (block : Block K) (g : Nat) (x y z : Int) (q : Fin 19)
    (h : ¬ ((-(g : Int) ≤ x ∧ x < block.pdfs.xSize + g)
      ∧ (-(g : Int) ≤ y ∧ y < block.pdfs.ySize + g)
      ∧ (-(g : Int) ≤ z ∧ z < block.pdfs.zSize + g))) :
    (stream block g).pdfs.data x y z q = block.pdfs_tmp.data x y z q := by
  show kernel_stream _ _ _ _ _ _ _ _ _ = _
  rw [kernel_stream_apply, if_neg (by omega)]
  show block.pdfs_tmp.data _ _ _ q = block.pdfs_tmp.data _ _ _ q
  congr 1 <;> omega

/-- The populations of `Sweep::collide`: collided inside the swept region, untouched outside. -/
theorem collide_data (sqrt : K → K) (philox_double2 : Philox K) (block : Block K) (g : Nat)
    (x y z : Int) (q : Fin 19) :
    (collide sqrt philox_double2 block g).pdfs.data x y z q
      = if (-(g : Int) ≤ x ∧ x < block.lm.force_.xSize + g)
          ∧ (-(g : Int) ≤ y ∧ y < block.lm.force_.ySize + g)
          ∧ (-(g : Int) ≤ z ∧ z < block.lm.force_.zSize + g)
        then kernel_collide.values ⟨sqrt, philox_double2,
          block.lm.force_.dataAt (-(g : Int)) (-(g : Int)) (-(g : Int)),
          block.pdfs.dataAt (-(g : Int)) (-(g : Int)) (-(g : Int)),
          block.lm.block_offset_0_, block.lm.block_offset_1_, block.lm.block_offset_2_,
          block.lm.kT_, block.lm.omega_bulk_, block.lm.omega_even_, block.lm.omega_odd_,
          block.lm.omega_shear_, block.lm.seed_, block.lm.time_step_,
          x + g, y + g, z + g⟩ q
        else block.pdfs.data x y z q := by
  show kernel_collide _ _ _ _ _ _ _ _ _ _ _ _ _ _ _ _ _ _ _ _ _ = _
  rw [kernel_collide_apply]
  by_cases h : (-(g : Int) ≤ x ∧ x < block.lm.force_.xSize + g)
      ∧ (-(g : Int) ≤ y ∧ y < block.lm.force_.ySize + g)
      ∧ (-(g : Int) ≤ z ∧ z < block.lm.force_.zSize + g)
  · rw [if_pos h, if_pos (by omega)]
    have ex : x - -(g : Int) = x + g := by omega
    have ey : y - -(g : Int) = y + g := by omega
    have ez : z - -(g : Int) = z + g := by omega
    rw [ex, ey, ez]
  · rw [if_neg h, if_neg (by omega)]
    show block.pdfs.data _ _ _ q = block.pdfs.data _ _ _ q
    congr 1 <;> omega

/-- After `Sweep::streamCollide` every cell of the swept region holds the value of the fused
loop body. -/
theorem streamCollide_data (sqrt : K → K) (philox_double2 : Philox K) (block : Block K)
    (g : Nat) (x y z : Int) (q : Fin 19)
    (h : (-(g : Int) ≤ x ∧ x < block.lm.force_.xSize + g)
      ∧ (-(g : Int) ≤ y ∧ y < block.lm.force_.ySize + g)
      ∧ (-(g : Int) ≤ z ∧ z < block.lm.force_.zSize + g)) :
    (streamCollide sqrt philox_double2 block g).pdfs.data x y z q
      = kernel_streamCollide.values ⟨sqrt, philox_double2,
          block.lm.force_.dataAt (-(g : Int) - 1) (-(g : Int) - 1) (-(g : Int) - 1),
          block.pdfs.dataAt (-(g : Int) - 1) (-(g : Int) - 1) (-(g : Int) - 1),
          block.lm.block_offset_0_, block.lm.block_offset_1_, block.lm.block_offset_2_,
          block.lm.kT_, block.lm.omega_bulk_, block.lm.omega_even_, block.lm.omega_odd_,
          block.lm.omega_shear_, block.lm.seed_, block.lm.time_step_,
          x + g + 1, y + g + 1, z + g + 1⟩ q := by
  show kernel_streamCollide _ _ _ _ _ _ _ _ _ _ _ _ _ _ _ _ _ _ _ _ _ _ = _
  rw [kernel_streamCollide_apply, if_pos (by omega)]
  have ex : x - (-(g : Int) - 1) = x + g + 1 := by omega
  have ey : y - (-(g : Int) - 1) = y + g + 1 := by omega
  have ez : z - (-(g : Int) - 1) = z + g + 1 := by omega
  rw [ex, ey, ez]

end FluctuatingMRTLatticeModel.Sweep


/-! ## The rest state -/

namespace FluctuatingMRTLatticeModel

/-- The rest state is a fixed point of the fused loop body. -/
theorem kernel_streamCollide.rest_site_fused [CharZero K] (s : Site K) (rho0 : K) (hkT : s.kT = 0)
    (hsqrt : s.sqrt 0 = 0) (hF : ∀ a, s._data_force s.ctr_0 s.ctr_1 s.ctr_2 a = 0)
    (hf : ∀ q, kernel_stream.values s._data_pdfs s.ctr_0 s.ctr_1 s.ctr_2 q = w q * rho0)
    (q : Fin 19) :
    kernel_streamCollide.values s q = w q * rho0 := by
  rw [kernel_streamCollide.values_pull]
  exact kernel_collide.rest_site (pulled s) rho0 hkT hsqrt hF hf q

/-- The density of the rest state is `rho0` and its momentum is zero. -/
theorem rest_moments [CharZero K] (f : Fin 19 → K) (rho0 : K) (hf : ∀ q, f q = w q * rho0) :
    ∑ q, f q = rho0 ∧ ∀ a, ∑ q, (cvec q a : K) * f q = 0 := by
  obtain ⟨w0, w1, w2, w3, w4, w5, w6, w7, w8, w9, w10, w11, w12, w13, w14, w15, w16, w17, w18⟩ :=
    @w_apply K _
  obtain ⟨a0, a1, a2, a3, a4, a5, a6, a7, a8, a9, a10, a11, a12, a13, a14, a15, a16, a17, a18⟩ :=
    cx_apply
  obtain ⟨b0, b1, b2, b3, b4, b5, b6, b7, b8, b9, b10, b11, b12, b13, b14, b15, b16, b17, b18⟩ :=
    cy_apply
  obtain ⟨c0, c1, c2, c3, c4, c5, c6, c7, c8, c9, c10, c11, c12, c13, c14, c15, c16, c17, c18⟩ :=
    cz_apply
  refine ⟨?_, ?_⟩
  · rw [sum19]
    simp only [hf, w0, w1, w2, w3, w4, w5, w6, w7, w8, w9, w10, w11, w12, w13, w14, w15, w16, w17,
      w18]
    ring
  · rw [forall_fin3]
    refine ⟨?_, ?_, ?_⟩
    · rw [sum19]
      simp only [(cvec_apply _).1, hf, w0, w1, w2, w3, w4, w5, w6, w7, w8, w9, w10, w11, w12, w13,
        w14, w15, w16, w17, w18, a0, a1, a2, a3, a4, a5, a6, a7, a8, a9, a10, a11, a12, a13, a14,
        a15, a16, a17, a18, Int.cast_zero, Int.cast_one, Int.cast_neg]
      ring
    · rw [sum19]
      simp only [(cvec_apply _).2.1, hf, w0, w1, w2, w3, w4, w5, w6, w7, w8, w9, w10, w11, w12,
        w13, w14, w15, w16, w17, w18, b0, b1, b2, b3, b4, b5, b6, b7, b8, b9, b10, b11, b12, b13,
        b14, b15, b16, b17, b18, Int.cast_zero, Int.cast_one, Int.cast_neg]
      ring
    · rw [sum19]
      simp only [(cvec_apply _).2.2, hf, w0, w1, w2, w3, w4, w5, w6, w7, w8, w9, w10, w11, w12,
        w13, w14, w15, w16, w17, w18, c0, c1, c2, c3, c4, c5, c6, c7, c8, c9, c10, c11, c12, c13,
        c14, c15, c16, c17, c18, Int.cast_zero, Int.cast_one, Int.cast_neg]
      ring

end FluctuatingMRTLatticeModel

theorem cvel_bounds (q : Fin 19) :
    (-1 ≤ cx q ∧ cx q ≤ 1) ∧ (-1 ≤ cy q ∧ cy q ≤ 1) ∧ (-1 ≤ cz q ∧ cz q ≤ 1) := by
  revert q
  decide

open FluctuatingMRTLatticeModel in
/-- One periodic time step keeps a resting lattice at rest, and keeps the sizes, the force
field and `kT`. -/
theorem periodicStep_rest [CharZero K] (sqrt : K → K) (hsqrt : sqrt 0 = 0)
    (philox_double2 : Philox K) (block : Block K) (rho0 : K) (hkT : block.lm.kT_ = 0)
    (hgl : 1 ≤ block.pdfs.nrOfGhostLayers)
    (hx : block.lm.force_.xSize = block.pdfs.xSize)
    (hy : block.lm.force_.ySize = block.pdfs.ySize)
    (hz : block.lm.force_.zSize = block.pdfs.zSize)
    (hF : ∀ (x y z : Int) a, (0 ≤ x ∧ x < block.pdfs.xSize) ∧ (0 ≤ y ∧ y < block.pdfs.ySize)
      ∧ (0 ≤ z ∧ z < block.pdfs.zSize) → block.lm.force_.data x y z a = 0)
    (hrest : ∀ (x y z : Int) q, (0 ≤ x ∧ x < block.pdfs.xSize) ∧ (0 ≤ y ∧ y < block.pdfs.ySize)
      ∧ (0 ≤ z ∧ z < block.pdfs.zSize) → block.pdfs.data x y z q = w q * rho0) :
    (∀ (x y z : Int) q, (0 ≤ x ∧ x < block.pdfs.xSize) ∧ (0 ≤ y ∧ y < block.pdfs.ySize)
      ∧ (0 ≤ z ∧ z < block.pdfs.zSize) →
        (periodicStep sqrt philox_double2 block).pdfs.data x y z q = w q * rho0)
    ∧ (periodicStep sqrt philox_double2 block).lm.kT_ = 0
    ∧ (periodicStep sqrt philox_double2 block).lm.force_ = block.lm.force_
    ∧ (periodicStep sqrt philox_double2 block).pdfs.xSize = block.pdfs.xSize
    ∧ (periodicStep sqrt philox_double2 block).pdfs.ySize = block.pdfs.ySize
    ∧ (periodicStep sqrt philox_double2 block).pdfs.zSize = block.pdfs.zSize
    ∧ (periodicStep sqrt philox_double2 block).pdfs.nrOfGhostLayers
        = block.pdfs.nrOfGhostLayers := by
  refine ⟨?_, hkT, rfl, rfl, rfl, rfl, rfl⟩
  intro x y z q h
  show (Sweep.streamCollide sqrt philox_double2 ⟨periodicHalo block.pdfs, block.pdfs_tmp,
    block.lm⟩ 0).pdfs.data x y z q = _
  have hreg : (-((0 : Nat) : Int) ≤ x ∧ x < block.lm.force_.xSize + (0 : Nat))
      ∧ (-((0 : Nat) : Int) ≤ y ∧ y < block.lm.force_.ySize + (0 : Nat))
      ∧ (-((0 : Nat) : Int) ≤ z ∧ z < block.lm.force_.zSize + (0 : Nat)) := by
    rw [hx, hy, hz]
    simp only [Nat.cast_zero, neg_zero, add_zero]
    exact h
  rw [Sweep.streamCollide_data sqrt philox_double2
    ⟨periodicHalo block.pdfs, block.pdfs_tmp, block.lm⟩ 0 x y z q hreg]
  refine kernel_streamCollide.rest_site_fused _ rho0 hkT hsqrt ?_ ?_ q
  · intro a
    show block.lm.force_.data _ _ _ a = 0
    have e : ∀ t : Int, (-((0 : Nat) : Int) - 1) + (t + ((0 : Nat) : Int) + 1) = t := by
      intro t
      omega
    rw [e, e, e]
    exact hF x y z a h
  · intro q'
    rw [kernel_stream.values_eq]
    obtain ⟨⟨hx1, hx2⟩, ⟨hy1, hy2⟩, ⟨hz1, hz2⟩⟩ := cvel_bounds q'
    show (periodicHalo block.pdfs).data _ _ _ q' = _
    have e : ∀ t d : Int, (-((0 : Nat) : Int) - 1) + (t + ((0 : Nat) : Int) + 1 - d) = t - d := by
      intro t d
      omega
    rw [e, e, e]
    unfold periodicHalo
    simp only []
    rw [if_pos (by omega)]
    refine hrest _ _ _ q' ⟨⟨?_, ?_⟩, ⟨?_, ?_⟩, ⟨?_, ?_⟩⟩
    · exact Int.emod_nonneg _ (by omega)
    · exact Int.emod_lt_of_pos _ (by omega)
    · exact Int.emod_nonneg _ (by omega)
    · exact Int.emod_lt_of_pos _ (by omega)
    · exact Int.emod_nonneg _ (by omega)
    · exact Int.emod_lt_of_pos _ (by omega)

open FluctuatingMRTLatticeModel in
/-- Any number of periodic time steps keeps a resting lattice at rest. -/
theorem periodicSteps_rest [CharZero K] (sqrt : K → K) (hsqrt : sqrt 0 = 0)
    (philox_double2 : Philox K) (block : Block K) (rho0 : K) (hkT : block.lm.kT_ = 0)
    (hgl : 1 ≤ block.pdfs.nrOfGhostLayers)
    (hx : block.lm.force_.xSize = block.pdfs.xSize)
    (hy : block.lm.force_.ySize = block.pdfs.ySize)
    (hz : block.lm.force_.zSize = block.pdfs.zSize)
    (hF : ∀ (x y z : Int) a, (0 ≤ x ∧ x < block.pdfs.xSize) ∧ (0 ≤ y ∧ y < block.pdfs.ySize)
      ∧ (0 ≤ z ∧ z < block.pdfs.zSize) → block.lm.force_.data x y z a = 0)
    (hrest : ∀ (x y z : Int) q, (0 ≤ x ∧ x < block.pdfs.xSize) ∧ (0 ≤ y ∧ y < block.pdfs.ySize)
      ∧ (0 ≤ z ∧ z < block.pdfs.zSize) → block.pdfs.data x y z q = w q * rho0) (n : Nat) :
    (∀ (x y z : Int) q, (0 ≤ x ∧ x < block.pdfs.xSize) ∧ (0 ≤ y ∧ y < block.pdfs.ySize)
      ∧ (0 ≤ z ∧ z < block.pdfs.zSize) →
        (periodicSteps sqrt philox_double2 n block).pdfs.data x y z q = w q * rho0)
    ∧ (periodicSteps sqrt philox_double2 n block).lm.kT_ = 0
    ∧ (periodicSteps sqrt philox_double2 n block).lm.force_ = block.lm.force_
    ∧ (periodicSteps sqrt philox_double2 n block).pdfs.xSize = block.pdfs.xSize
    ∧ (periodicSteps sqrt philox_double2 n block).pdfs.ySize = block.pdfs.ySize
    ∧ (periodicSteps sqrt philox_double2 n block).pdfs.zSize = block.pdfs.zSize
    ∧ (periodicSteps sqrt philox_double2 n block).pdfs.nrOfGhostLayers
        = block.pdfs.nrOfGhostLayers := by
  induction n with
  | zero => exact ⟨hrest, hkT, rfl, rfl, rfl, rfl, rfl⟩
  | succ n ih =>
    obtain ⟨i1, i2, i3, i4, i5, i6, i7⟩ := ih
    have step := periodicStep_rest sqrt hsqrt philox_double2
      (periodicSteps sqrt philox_double2 n block) rho0 i2 (by rw [i7]; exact hgl)
      (by rw [i3, i4]; exact hx) (by rw [i3, i5]; exact hy) (by rw [i3, i6]; exact hz)
      (by rw [i3, i4, i5, i6]; exact hF) (by rw [i4, i5, i6]; exact i1)
    obtain ⟨s1, s2, s3, s4, s5, s6, s7⟩ := step
    refine ⟨?_, s2, s3.trans i3, s4.trans i4, s5.trans i5, s6.trans i6, s7.trans i7⟩
    rw [i4, i5, i6] at s1
    exact s1


/-! ## The separate passes against the fused pass -/

theorem u32_shift (bo : Nat) (c : Int) :
    u32 ((((bo + 1) % 4294967296 : Nat) : Int) + c) = u32 ((bo : Int) + (c + 1)) := by
  simp only [u32]
  omega

namespace FluctuatingMRTLatticeModel.Sweep

/-- In `Sweep::stream` followed by `Sweep::collide` (the latter with the lattice model `lm'`) a
cell of the swept region holds the collision of the populations pulled from its neighbours; the
cell counters are those of `Sweep::collide`. -/
theorem collide_stream_data (sqrt : K → K) (philox_double2 : Philox K) (pdfs pdfs_tmp :
    GhostLayerField K 19) (lm lm' : LatticeModel K) (g : Nat) (x y z : Int) (q : Fin 19)
    (hf : lm'.force_ = lm.force_)
    (hx : lm.force_.xSize = pdfs.xSize) (hy : lm.force_.ySize = pdfs.ySize)
    (hz : lm.force_.zSize = pdfs.zSize)
    (h : (-(g : Int) ≤ x ∧ x < pdfs.xSize + g) ∧ (-(g : Int) ≤ y ∧ y < pdfs.ySize + g)
      ∧ (-(g : Int) ≤ z ∧ z < pdfs.zSize + g)) :
    (collide sqrt philox_double2
        ⟨(stream ⟨pdfs, pdfs_tmp, lm⟩ g).pdfs, (stream ⟨pdfs, pdfs_tmp, lm⟩ g).pdfs_tmp, lm'⟩
        g).pdfs.data x y z q
      = kernel_collide.values (pulled ⟨sqrt, philox_double2,
          lm.force_.dataAt (-(g : Int)) (-(g : Int)) (-(g : Int)),
          pdfs.dataAt (-(g : Int)) (-(g : Int)) (-(g : Int)),
          lm'.block_offset_0_, lm'.block_offset_1_, lm'.block_offset_2_,
          lm'.kT_, lm'.omega_bulk_, lm'.omega_even_, lm'.omega_odd_,
          lm'.omega_shear_, lm'.seed_, lm'.time_step_,
          x + g, y + g, z + g⟩) q := by
  have h' : (-(g : Int) ≤ x ∧ x < lm'.force_.xSize + g)
      ∧ (-(g : Int) ≤ y ∧ y < lm'.force_.ySize + g)
      ∧ (-(g : Int) ≤ z ∧ z < lm'.force_.zSize + g) := by
    rw [hf, hx, hy, hz]
    exact h
  rw [collide_data]
  simp only []
  rw [if_pos h']
  refine congrFun (kernel_collide.values_eq_of_reads _ _ ?_ ?_ ?_ ?_ ?_ ?_ ?h_pdfs ?h_force
    ?_ ?_ ?_ ?_ ?_ ?_ ?_ ?_) q
  case h_pdfs =>
    intro q'
    show (stream ⟨pdfs, pdfs_tmp, lm⟩ g).pdfs.data _ _ _ q'
      = kernel_stream.values _ (x + g) (y + g) (z + g) q'
    have e : ∀ t : Int, -(g : Int) + (t + g) = t := by
      intro t
      omega
    rw [e, e, e, stream_data _ g x y z q' h, kernel_stream.values_eq]
    show pdfs.data _ _ _ q' = pdfs.data _ _ _ q'
    congr 1 <;> omega
  case h_force =>
    intro a
    show lm'.force_.data _ _ _ a = lm.force_.data _ _ _ a
    rw [hf]
    rfl
  all_goals rfl

/-- The fused pass and `Sweep::stream` followed by `Sweep::collide` read the same populations
and the same force at a cell of the swept region. -/
theorem fused_reads (sqrt : K → K) (philox philox' : Philox K) (pdfs : GhostLayerField K 19)
    (force : GhostLayerField K 3) (b0 b1 b2 b0' b1' b2' : Nat) (kT kT' ob oe oo os : K)
    (seed ts seed' ts' : Nat) (g : Nat) (x y z : Int) :
    (∀ q, (pulled ⟨sqrt, philox, force.dataAt (-(g : Int)) (-(g : Int)) (-(g : Int)),
          pdfs.dataAt (-(g : Int)) (-(g : Int)) (-(g : Int)), b0', b1', b2', kT', ob, oe, oo, os,
          seed', ts', x + g, y + g, z + g⟩)._data_pdfs (x + g) (y + g) (z + g) q
        = (pulled ⟨sqrt, philox', force.dataAt (-(g : Int) - 1) (-(g : Int) - 1) (-(g : Int) - 1),
          pdfs.dataAt (-(g : Int) - 1) (-(g : Int) - 1) (-(g : Int) - 1), b0, b1, b2, kT, ob, oe,
          oo, os, seed, ts, x + g + 1, y + g + 1, z + g + 1⟩)._data_pdfs
            (x + g + 1) (y + g + 1) (z + g + 1) q)
    ∧ (∀ a, force.dataAt (-(g : Int)) (-(g : Int)) (-(g : Int)) (x + g) (y + g) (z + g) a
        = force.dataAt (-(g : Int) - 1) (-(g : Int) - 1) (-(g : Int) - 1)
            (x + g + 1) (y + g + 1) (z + g + 1) a) := by
  refine ⟨fun q => ?_, fun a => ?_⟩
  · show kernel_stream.values _ _ _ _ q = kernel_stream.values _ _ _ _ q
    rw [kernel_stream.values_eq, kernel_stream.values_eq]
    show pdfs.data _ _ _ q = pdfs.data _ _ _ q
    congr 1 <;> omega
  · show force.data _ _ _ a = force.data _ _ _ a
    congr 1 <;> omega

end FluctuatingMRTLatticeModel.Sweep


/-! ## The relaxation rates derived from the viscosity -/

section rates

variable {F : Type} [LinearOrderedField F]

/-- The shear rate `2 / (6 v + 1)` lies strictly between 0 and 2 exactly when `v > 0`. -/
theorem omega_mem_iff (v : F) : (0 < 2 / (6 * v + 1) ∧ 2 / (6 * v + 1) < 2) ↔ 0 < v := by
  constructor
  · rintro ⟨h1, h2⟩
    have hd : 0 < 6 * v + 1 := by
      rcases div_pos_iff.mp h1 with h | h
      · exact h.2
      · exact absurd h.1 (by norm_num)
    rw [div_lt_iff hd] at h2
    linarith
  · intro hv
    have hd : 0 < 6 * v + 1 := by linarith
    refine ⟨div_pos (by norm_num) hd, ?_⟩
    rw [div_lt_iff hd]
    linarith

/-- For a shear rate in `(0, 2)` the odd rate of the code lies in `(0, 2)` as well. -/
theorem omega_odd_mem (w : F) (h0 : 0 < w) (h2 : w < 2) :
    0 < (4 - 2 * w) / (4 * (3 / 16) * w + 2 - w)
      ∧ (4 - 2 * w) / (4 * (3 / 16) * w + 2 - w) < 2 := by
  have hd : 0 < 4 * (3 / 16) * w + 2 - w := by linarith
  refine ⟨div_pos (by linarith) hd, ?_⟩
  rw [div_lt_iff hd]
  linarith

/-- The formula of the code for the odd rate is the magic-number relation
`(1/w - 1/2) (1/x - 1/2) = 3/16` solved for `x`. -/
theorem magic_iff (w x : F) (h0 : 0 < w) (h2 : w < 2) :
    x = (4 - 2 * w) / (4 * (3 / 16) * w + 2 - w)
      ↔ (1 / w - 1 / 2) * (1 / x - 1 / 2) = 3 / 16 := by
  have hd : 0 < 4 * (3 / 16) * w + 2 - w := by linarith
  have hw : w ≠ 0 := ne_of_gt h0
  constructor
  · intro hx
    have hxpos : 0 < x := by
      rw [hx]
      exact div_pos (by linarith) hd
    have hx0 : x ≠ 0 := ne_of_gt hxpos
    have e : x * (4 * (3 / 16) * w + 2 - w) = 4 - 2 * w := by
      rw [hx, div_mul_cancel₀ _ (ne_of_gt hd)]
    field_simp
    linear_combination (-16 : F) * e
  · intro h
    have hx0 : x ≠ 0 := by
      intro hx
      rw [hx] at h
      simp only [div_zero, zero_sub] at h
      have h8 : 1 / w = 1 / 8 := by linarith
      have : w = 8 := by
        field_simp at h8
        linarith
      linarith
    rw [eq_div_iff (ne_of_gt hd)]
    field_simp at h
    linear_combination (-1 / 16 : F) * h

end rates

namespace LBWalberlaD3Q19FluctuatingMRT

variable {I T : Type}

/-- The lattice model after `set_viscosity`: all four rates are rewritten, the other members are
kept. -/
theorem set_viscosity_lattice_model
    (on_lattice_model_change : FluctuatingMRTLatticeModel.LatticeModel K → T → T)
    (self : LBWalberlaD3Q19FluctuatingMRT K I T) (viscosity : K) :
    (set_viscosity on_lattice_model_change self viscosity).m_lattice_model
      = ⟨self.m_lattice_model.force_, 2 / (6 * viscosity + 1),
          (4 - 2 * (2 / (6 * viscosity + 1)))
            / (4 * (3 / 16) * (2 / (6 * viscosity + 1)) + 2 - 2 / (6 * viscosity + 1)),
          self.m_lattice_model.block_offset_2_, self.m_lattice_model.block_offset_0_,
          2 / (6 * viscosity + 1), self.m_lattice_model.block_offset_1_,
          2 / (6 * viscosity + 1), self.m_lattice_model.seed_, self.m_lattice_model.kT_,
          self.m_lattice_model.time_step_⟩ :=
  rfl

/-- The lattice model after `n` calls of `integrate`: the time step has advanced by `n` modulo
`2^32`, the other members are kept. -/
theorem integrate_n_lattice_model (singleStep : T → T)
    (on_lattice_model_change : FluctuatingMRTLatticeModel.LatticeModel K → T → T)
    (self : LBWalberlaD3Q19FluctuatingMRT K I T)
    (ht : self.m_lattice_model.time_step_ < 4294967296) (n : Nat) :
    (integrate_n singleStep on_lattice_model_change n self).m_lattice_model
      = ⟨self.m_lattice_model.force_, self.m_lattice_model.omega_even_,
          self.m_lattice_model.omega_odd_, self.m_lattice_model.block_offset_2_,
          self.m_lattice_model.block_offset_0_, self.m_lattice_model.omega_shear_,
          self.m_lattice_model.block_offset_1_, self.m_lattice_model.omega_bulk_,
          self.m_lattice_model.seed_, self.m_lattice_model.kT_,
          (self.m_lattice_model.time_step_ + n) % 4294967296⟩ := by
  induction n with
  | zero =>
    show self.m_lattice_model = _
    rw [Nat.add_zero, Nat.mod_eq_of_lt ht]
  | succ n ih =>
    show (⟨_, _, _, _, _, _, _, _, _, _, _⟩ : FluctuatingMRTLatticeModel.LatticeModel K) = _
    rw [ih]
    simp only [FluctuatingMRTLatticeModel.LatticeModel.mk.injEq, true_and]
    omega

end LBWalberlaD3Q19FluctuatingMRT


/-! ## The noise of the collision, slot by slot and moment by moment -/

theorem forall_fin15 (P : Fin 15 → Prop) :
    (∀ j, P j) ↔ P 0 ∧ P 1 ∧ P 2 ∧ P 3 ∧ P 4 ∧ P 5 ∧ P 6 ∧ P 7 ∧ P 8 ∧ P 9 ∧ P 10 ∧ P 11 ∧ P 12 ∧ P 13 ∧ P 14 := by
  constructor
  · intro h
    exact ⟨h 0, h 1, h 2, h 3, h 4, h 5, h 6, h 7, h 8, h 9, h 10, h 11, h 12, h 13, h 14⟩
  · rintro ⟨h0, h1, h2, h3, h4, h5, h6, h7, h8, h9, h10, h11, h12, h13, h14⟩ j
    fin_cases j <;> assumption

theorem quiet_sqrt (s : Site K) : (quiet s).sqrt = s.sqrt := rfl

theorem quiet_philox_double2 (s : Site K) : (quiet s).philox_double2 = s.philox_double2 := rfl

theorem quiet__data_force (s : Site K) : (quiet s)._data_force = s._data_force := rfl

theorem quiet__data_pdfs (s : Site K) : (quiet s)._data_pdfs = s._data_pdfs := rfl

theorem quiet_block_offset_0 (s : Site K) : (quiet s).block_offset_0 = s.block_offset_0 := rfl

theorem quiet_block_offset_1 (s : Site K) : (quiet s).block_offset_1 = s.block_offset_1 := rfl

theorem quiet_block_offset_2 (s : Site K) : (quiet s).block_offset_2 = s.block_offset_2 := rfl

theorem quiet_kT (s : Site K) : (quiet s).kT = 0 := rfl

theorem quiet_omega_bulk (s : Site K) : (quiet s).omega_bulk = s.omega_bulk := rfl

theorem quiet_omega_even (s : Site K) : (quiet s).omega_even = s.omega_even := rfl

theorem quiet_omega_odd (s : Site K) : (quiet s).omega_odd = s.omega_odd := rfl

theorem quiet_omega_shear (s : Site K) : (quiet s).omega_shear = s.omega_shear := rfl

theorem quiet_seed (s : Site K) : (quiet s).seed = s.seed := rfl

theorem quiet_time_step (s : Site K) : (quiet s).time_step = s.time_step := rfl

theorem quiet_ctr_0 (s : Site K) : (quiet s).ctr_0 = s.ctr_0 := rfl

theorem quiet_ctr_1 (s : Site K) : (quiet s).ctr_1 = s.ctr_1 := rfl

theorem quiet_ctr_2 (s : Site K) : (quiet s).ctr_2 = s.ctr_2 := rfl

namespace FluctuatingMRTLatticeModel.kernel_collide

theorem xi_40_quiet (s : Site K) : xi_40 (quiet s) = xi_40 s := by
  simp only [
    xi_40, quiet_omega_bulk s]

theorem xi_51_quiet (s : Site K) : xi_51 (quiet s) = xi_51 s := by
  simp only [
    xi_51, quiet_omega_shear s]

theorem xi_52_quiet (s : Site K) : xi_52 (quiet s) = xi_52 s := by
  simp only [
    xi_52, xi_51_quiet s]

theorem xi_73_quiet (s : Site K) : xi_73 (quiet s) = xi_73 s := by
  simp only [
    xi_73, xi_52_quiet s]

theorem xi_207_quiet (s : Site K) : xi_207 (quiet s) = xi_207 s := by
  simp only [
    xi_207, quiet_omega_shear s]

theorem xi_259_quiet (s : Site K) : xi_259 (quiet s) = xi_259 s := by
  simp only [
    xi_259, quiet__data_pdfs s, quiet_ctr_0 s, quiet_ctr_1 s, quiet_ctr_2 s]

theorem xi_260_quiet (s : Site K) : xi_260 (quiet s) = xi_260 s := by
  simp only [
    xi_260, quiet__data_pdfs s, quiet_ctr_0 s, quiet_ctr_1 s, quiet_ctr_2 s]

theorem xi_261_quiet (s : Site K) : xi_261 (quiet s) = xi_261 s := by
  simp only [
    xi_261, quiet__data_pdfs s, quiet_ctr_0 s, quiet_ctr_1 s, quiet_ctr_2 s]

theorem xi_262_quiet (s : Site K) : xi_262 (quiet s) = xi_262 s := by
  simp only [
    xi_262, quiet__data_pdfs s, quiet_ctr_0 s, quiet_ctr_1 s, quiet_ctr_2 s]

theorem xi_263_quiet (s : Site K) : xi_263 (quiet s) = xi_263 s := by
  simp only [
    xi_263, quiet__data_pdfs s, quiet_ctr_0 s, quiet_ctr_1 s, quiet_ctr_2 s]

theorem xi_264_quiet (s : Site K) : xi_264 (quiet s) = xi_264 s := by
  simp only [
    xi_264, quiet__data_pdfs s, quiet_ctr_0 s, quiet_ctr_1 s, quiet_ctr_2 s]

theorem xi_265_quiet (s : Site K) : xi_265 (quiet s) = xi_265 s := by
  simp only [
    xi_265, quiet__data_pdfs s, quiet_ctr_0 s, quiet_ctr_1 s, quiet_ctr_2 s]

theorem xi_266_quiet (s : Site K) : xi_266 (quiet s) = xi_266 s := by
  simp only [
    xi_266, quiet__data_pdfs s, quiet_ctr_0 s, quiet_ctr_1 s, quiet_ctr_2 s]

theorem xi_267_quiet (s : Site K) : xi_267 (quiet s) = xi_267 s := by
  simp only [
    xi_267, quiet__data_pdfs s, quiet_ctr_0 s, quiet_ctr_1 s, quiet_ctr_2 s]

theorem xi_268_quiet (s : Site K) : xi_268 (quiet s) = xi_268 s := by
  simp only [
    xi_268, quiet__data_pdfs s, quiet_ctr_0 s, quiet_ctr_1 s, quiet_ctr_2 s]

theorem xi_269_quiet (s : Site K) : xi_269 (quiet s) = xi_269 s := by
  simp only [
    xi_269, quiet__data_pdfs s, quiet_ctr_0 s, quiet_ctr_1 s, quiet_ctr_2 s]

theorem xi_270_quiet (s : Site K) : xi_270 (quiet s) = xi_270 s := by
  simp only [
    xi_270, quiet__data_pdfs s, quiet_ctr_0 s, quiet_ctr_1 s, quiet_ctr_2 s]

theorem xi_271_quiet (s : Site K) : xi_271 (quiet s) = xi_271 s := by
  simp only [
    xi_271, quiet__data_force s, quiet_ctr_0 s, quiet_ctr_1 s, quiet_ctr_2 s]

theorem xi_272_quiet (s : Site K) : xi_272 (quiet s) = xi_272 s := by
  simp only [
    xi_272, quiet__data_pdfs s, quiet_ctr_0 s, quiet_ctr_1 s, quiet_ctr_2 s]

theorem xi_273_quiet (s : Site K) : xi_273 (quiet s) = xi_273 s := by
  simp only [
    xi_273, quiet__data_force s, quiet_ctr_0 s, quiet_ctr_1 s, quiet_ctr_2 s]

theorem xi_274_quiet (s : Site K) : xi_274 (quiet s) = xi_274 s := by
  simp only [
    xi_274, quiet__data_pdfs s, quiet_ctr_0 s, quiet_ctr_1 s, quiet_ctr_2 s]

theorem xi_275_quiet (s : Site K) : xi_275 (quiet s) = xi_275 s := by
  simp only [
    xi_275, quiet__data_pdfs s, quiet_ctr_0 s, quiet_ctr_1 s, quiet_ctr_2 s]

theorem xi_276_quiet (s : Site K) : xi_276 (quiet s) = xi_276 s := by
  simp only [
    xi_276, quiet__data_pdfs s, quiet_ctr_0 s, quiet_ctr_1 s, quiet_ctr_2 s]

theorem xi_277_quiet (s : Site K) : xi_277 (quiet s) = xi_277 s := by
  simp only [
    xi_277, quiet__data_force s, quiet_ctr_0 s, quiet_ctr_1 s, quiet_ctr_2 s]

theorem xi_278_quiet (s : Site K) : xi_278 (quiet s) = xi_278 s := by
  simp only [
    xi_278, quiet__data_pdfs s, quiet_ctr_0 s, quiet_ctr_1 s, quiet_ctr_2 s]

theorem xi_279_quiet (s : Site K) : xi_279 (quiet s) = xi_279 s := by
  simp only [
    xi_279, quiet__data_pdfs s, quiet_ctr_0 s, quiet_ctr_1 s, quiet_ctr_2 s]

theorem xi_280_quiet (s : Site K) : xi_280 (quiet s) = xi_280 s := by
  simp only [
    xi_280, quiet__data_pdfs s, quiet_ctr_0 s, quiet_ctr_1 s, quiet_ctr_2 s]

theorem xi_0_quiet (s : Site K) : xi_0 (quiet s) = xi_0 s := by
  simp only [
    xi_0, xi_259_quiet s, xi_265_quiet s]

theorem xi_1_quiet (s : Site K) : xi_1 (quiet s) = xi_1 s := by
  simp only [
    xi_1, xi_262_quiet s, xi_272_quiet s]

theorem xi_2_quiet (s : Site K) : xi_2 (quiet s) = xi_2 s := by
  simp only [
    xi_2, xi_266_quiet s, xi_0_quiet s, xi_1_quiet s]

theorem xi_3_quiet (s : Site K) : xi_3 (quiet s) = xi_3 s := by
  simp only [
    xi_3, xi_264_quiet s, xi_270_quiet s]

theorem xi_4_quiet (s : Site K) : xi_4 (quiet s) = xi_4 s := by
  simp only [
    xi_4, xi_260_quiet s, xi_3_quiet s]

theorem xi_5_quiet (s : Site K) : xi_5 (quiet s) = xi_5 s := by
  simp only [
    xi_5, xi_269_quiet s, xi_4_quiet s]

theorem xi_6_quiet (s : Site K) : xi_6 (quiet s) = xi_6 s := by
  simp only [
    xi_6, xi_261_quiet s, xi_279_quiet s]

theorem xi_7_quiet (s : Site K) : xi_7 (quiet s) = xi_7 s := by
  simp only [
    xi_7, xi_275_quiet s, xi_6_quiet s]

theorem xi_8_quiet (s : Site K) : xi_8 (quiet s) = xi_8 s := by
  simp only [
    xi_8, xi_268_quiet s, xi_274_quiet s]

theorem xi_9_quiet (s : Site K) : xi_9 (quiet s) = xi_9 s := by
  simp only [
    xi_9, xi_278_quiet s, xi_280_quiet s]

theorem xi_10_quiet (s : Site K) : xi_10 (quiet s) = xi_10 s := by
  simp only [
    xi_10, xi_267_quiet s, xi_276_quiet s]

theorem xi_12_quiet (s : Site K) : xi_12 (quiet s) = xi_12 s := by
  simp only [
    xi_12, xi_276_quiet s]

theorem xi_13_quiet (s : Site K) : xi_13 (quiet s) = xi_13 s := by
  simp only [
    xi_13, xi_268_quiet s]

theorem xi_14_quiet (s : Site K) : xi_14 (quiet s) = xi_14 s := by
  simp only [
    xi_14, xi_12_quiet s, xi_13_quiet s]

theorem xi_15_quiet (s : Site K) : xi_15 (quiet s) = xi_15 s := by
  simp only [
    xi_15, xi_275_quiet s]

theorem xi_16_quiet (s : Site K) : xi_16 (quiet s) = xi_16 s := by
  simp only [
    xi_16, xi_269_quiet s]

theorem xi_17_quiet (s : Site K) : xi_17 (quiet s) = xi_17 s := by
  simp only [
    xi_17, xi_274_quiet s]

theorem xi_18_quiet (s : Site K) : xi_18 (quiet s) = xi_18 s := by
  simp only [
    xi_18, xi_16_quiet s, xi_17_quiet s]

theorem xi_19_quiet (s : Site K) : xi_19 (quiet s) = xi_19 s := by
  simp only [
    xi_19, xi_15_quiet s, xi_18_quiet s]

theorem xi_20_quiet (s : Site K) : xi_20 (quiet s) = xi_20 s := by
  simp only [
    xi_20, xi_265_quiet s]

theorem xi_21_quiet (s : Site K) : xi_21 (quiet s) = xi_21 s := by
  simp only [
    xi_21, xi_259_quiet s, xi_20_quiet s]

theorem xi_22_quiet (s : Site K) : xi_22 (quiet s) = xi_22 s := by
  simp only [
    xi_22, xi_279_quiet s]

theorem xi_23_quiet (s : Site K) : xi_23 (quiet s) = xi_23 s := by
  simp only [
    xi_23, xi_278_quiet s]

theorem xi_24_quiet (s : Site K) : xi_24 (quiet s) = xi_24 s := by
  simp only [
    xi_24, xi_280_quiet s]

theorem xi_25_quiet (s : Site K) : xi_25 (quiet s) = xi_25 s := by
  simp only [
    xi_25, xi_22_quiet s, xi_23_quiet s, xi_24_quiet s]

theorem xi_26_quiet (s : Site K) : xi_26 (quiet s) = xi_26 s := by
  simp only [
    xi_26, xi_262_quiet s]

theorem xi_27_quiet (s : Site K) : xi_27 (quiet s) = xi_27 s := by
  simp only [
    xi_27, xi_12_quiet s, xi_26_quiet s]

theorem xi_28_quiet (s : Site K) : xi_28 (quiet s) = xi_28 s := by
  simp only [
    xi_28, xi_270_quiet s]

theorem xi_29_quiet (s : Site K) : xi_29 (quiet s) = xi_29 s := by
  simp only [
    xi_29, xi_267_quiet s]

theorem xi_30_quiet (s : Site K) : xi_30 (quiet s) = xi_30 s := by
  simp only [
    xi_30, xi_264_quiet s, xi_24_quiet s, xi_28_quiet s, xi_29_quiet s]

theorem xi_31_quiet (s : Site K) : xi_31 (quiet s) = xi_31 s := by
  simp only [
    xi_31, xi_275_quiet s, xi_276_quiet s]

theorem xi_32_quiet (s : Site K) : xi_32 (quiet s) = xi_32 s := by
  simp only [
    xi_32, xi_269_quiet s, xi_8_quiet s, xi_31_quiet s]

theorem xi_33_quiet (s : Site K) : xi_33 (quiet s) = xi_33 s := by
  simp only [
    xi_33, xi_274_quiet s, xi_16_quiet s, xi_21_quiet s]

theorem xi_34_quiet (s : Site K) : xi_34 (quiet s) = xi_34 s := by
  simp only [
    xi_34, xi_276_quiet s, xi_26_quiet s]

theorem xi_35_quiet (s : Site K) : xi_35 (quiet s) = xi_35 s := by
  simp only [
    xi_35, xi_272_quiet s, xi_15_quiet s]

theorem xi_36_quiet (s : Site K) : xi_36 (quiet s) = xi_36 s := by
  simp only [
    xi_36, xi_34_quiet s, xi_35_quiet s]

theorem xi_37_quiet (s : Site K) : xi_37 (quiet s) = xi_37 s := by
  simp only [
    xi_37, xi_274_quiet s, xi_279_quiet s, xi_9_quiet s]

theorem xi_38_quiet (s : Site K) : xi_38 (quiet s) = xi_38 s := by
  simp only [
    xi_38, xi_280_quiet s, xi_28_quiet s]

theorem xi_39_quiet (s : Site K) : xi_39 (quiet s) = xi_39 s := by
  simp only [
    xi_39, xi_264_quiet s, xi_22_quiet s, xi_38_quiet s]

theorem xi_72_quiet (s : Site K) : xi_72 (quiet s) = xi_72 s := by
  simp only [
    xi_72, xi_271_quiet s]

theorem xi_108_quiet (s : Site K) : xi_108 (quiet s) = xi_108 s := by
  simp only [
    xi_108, xi_263_quiet s]

theorem xi_109_quiet (s : Site K) : xi_109 (quiet s) = xi_109 s := by
  simp only [
    xi_109, xi_261_quiet s, xi_267_quiet s, xi_108_quiet s]

theorem xi_110_quiet (s : Site K) : xi_110 (quiet s) = xi_110 s := by
  simp only [
    xi_110, xi_260_quiet s, xi_264_quiet s, xi_270_quiet s, xi_278_quiet s, xi_279_quiet s,
    xi_280_quiet s, xi_109_quiet s, quiet_omega_even s]

theorem xi_111_quiet (s : Site K) : xi_111 (quiet s) = xi_111 s := by
  simp only [
    xi_111, xi_264_quiet s, xi_270_quiet s, xi_279_quiet s, xi_280_quiet s]

theorem xi_112_quiet (s : Site K) : xi_112 (quiet s) = xi_112 s := by
  simp only [
    xi_112, xi_266_quiet s, xi_268_quiet s, xi_111_quiet s]

theorem xi_113_quiet (s : Site K) : xi_113 (quiet s) = xi_113 s := by
  simp only [
    xi_113, xi_260_quiet s, xi_262_quiet s, xi_272_quiet s, xi_275_quiet s, xi_276_quiet s,
    xi_278_quiet s, xi_109_quiet s, xi_112_quiet s, quiet_omega_even s]

theorem xi_116_quiet (s : Site K) : xi_116 (quiet s) = xi_116 s := by
  simp only [
    xi_116, xi_264_quiet s]

theorem xi_117_quiet (s : Site K) : xi_117 (quiet s) = xi_117 s := by
  simp only [
    xi_117, xi_22_quiet s, xi_116_quiet s]

theorem xi_118_quiet (s : Site K) : xi_118 (quiet s) = xi_118 s := by
  simp only [
    xi_118, xi_259_quiet s]

theorem xi_121_quiet (s : Site K) : xi_121 (quiet s) = xi_121 s := by
  simp only [
    xi_121, xi_272_quiet s]

theorem xi_122_quiet (s : Site K) : xi_122 (quiet s) = xi_122 s := by
  simp only [
    xi_122, xi_19_quiet s, xi_27_quiet s, xi_121_quiet s]

theorem xi_124_quiet (s : Site K) : xi_124 (quiet s) = xi_124 s := by
  simp only [
    xi_124, xi_275_quiet s]

theorem xi_125_quiet (s : Site K) : xi_125 (quiet s) = xi_125 s := by
  simp only [
    xi_125, xi_272_quiet s]

theorem xi_126_quiet (s : Site K) : xi_126 (quiet s) = xi_126 s := by
  simp only [
    xi_126, xi_262_quiet s, xi_276_quiet s]

theorem xi_127_quiet (s : Site K) : xi_127 (quiet s) = xi_127 s := by
  simp only [
    xi_127, xi_259_quiet s, xi_260_quiet s, xi_261_quiet s, xi_265_quiet s, xi_267_quiet s,
    xi_269_quiet s, xi_274_quiet s, xi_278_quiet s, xi_108_quiet s, xi_112_quiet s, xi_124_quiet
    s, xi_125_quiet s, xi_126_quiet s, quiet_omega_even s]

theorem xi_128_quiet (s : Site K) : xi_128 (quiet s) = xi_128 s := by
  simp only [
    xi_128, xi_260_quiet s, xi_279_quiet s, xi_23_quiet s, xi_38_quiet s, xi_116_quiet s]

theorem xi_140_quiet (s : Site K) : xi_140 (quiet s) = xi_140 s := by
  simp only [
    xi_140, xi_269_quiet s]

theorem xi_141_quiet (s : Site K) : xi_141 (quiet s) = xi_141 s := by
  simp only [
    xi_141, xi_265_quiet s]

theorem xi_142_quiet (s : Site K) : xi_142 (quiet s) = xi_142 s := by
  simp only [
    xi_142, xi_259_quiet s, xi_274_quiet s]

theorem xi_143_quiet (s : Site K) : xi_143 (quiet s) = xi_143 s := by
  simp only [
    xi_143, xi_4_quiet s, xi_25_quiet s, xi_140_quiet s, xi_141_quiet s, xi_142_quiet s]

theorem xi_168_quiet (s : Site K) : xi_168 (quiet s) = xi_168 s := by
  simp only [
    xi_168, xi_266_quiet s, xi_275_quiet s, xi_13_quiet s, xi_34_quiet s, xi_121_quiet s]

theorem xi_172_quiet (s : Site K) : xi_172 (quiet s) = xi_172 s := by
  simp only [
    xi_172, xi_262_quiet s, xi_266_quiet s, xi_14_quiet s, xi_35_quiet s, xi_140_quiet s,
    xi_141_quiet s, xi_142_quiet s]

theorem xi_179_quiet (s : Site K) : xi_179 (quiet s) = xi_179 s := by
  simp only [
    xi_179, xi_270_quiet s, xi_280_quiet s]

theorem xi_180_quiet (s : Site K) : xi_180 (quiet s) = xi_180 s := by
  simp only [
    xi_180, xi_261_quiet s, xi_29_quiet s, xi_117_quiet s, xi_179_quiet s]

theorem xi_186_quiet (s : Site K) : xi_186 (quiet s) = xi_186 s := by
  simp only [
    xi_186, xi_6_quiet s, xi_30_quiet s, xi_124_quiet s, xi_125_quiet s, xi_126_quiet s]

theorem vel0Term_quiet (s : Site K) : vel0Term (quiet s) = vel0Term s := by
  simp only [
    vel0Term, xi_2_quiet s]

theorem vel1Term_quiet (s : Site K) : vel1Term (quiet s) = vel1Term s := by
  simp only [
    vel1Term, xi_5_quiet s]

theorem vel2Term_quiet (s : Site K) : vel2Term (quiet s) = vel2Term s := by
  simp only [
    vel2Term, xi_7_quiet s]

theorem rho_quiet (s : Site K) : rho (quiet s) = rho s := by
  simp only [
    rho, xi_263_quiet s, xi_8_quiet s, xi_9_quiet s, xi_10_quiet s, vel0Term_quiet s,
    vel1Term_quiet s, vel2Term_quiet s]

theorem xi_11_quiet (s : Site K) : xi_11 (quiet s) = xi_11 s := by
  simp only [
    xi_11, rho_quiet s]

theorem u_0_quiet (s : Site K) : u_0 (quiet s) = u_0 s := by
  simp only [
    u_0, xi_14_quiet s, xi_19_quiet s, vel0Term_quiet s, xi_11_quiet s]

theorem xi_41_quiet (s : Site K) : xi_41 (quiet s) = xi_41 s := by
  simp only [
    xi_41, xi_277_quiet s, u_0_quiet s]

theorem xi_42_quiet (s : Site K) : xi_42 (quiet s) = xi_42 s := by
  simp only [
    xi_42, xi_41_quiet s]

theorem xi_48_quiet (s : Site K) : xi_48 (quiet s) = xi_48 s := by
  simp only [
    xi_48, xi_42_quiet s]

theorem xi_114_quiet (s : Site K) : xi_114 (quiet s) = xi_114 s := by
  simp only [
    xi_114, rho_quiet s, u_0_quiet s]

theorem xi_165_quiet (s : Site K) : xi_165 (quiet s) = xi_165 s := by
  simp only [
    xi_165, rho_quiet s, u_0_quiet s]

theorem xi_166_quiet (s : Site K) : xi_166 (quiet s) = xi_166 s := by
  simp only [
    xi_166, xi_32_quiet s, vel0Term_quiet s, xi_165_quiet s]

theorem u_1_quiet (s : Site K) : u_1 (quiet s) = u_1 s := by
  simp only [
    u_1, xi_17_quiet s, xi_21_quiet s, xi_25_quiet s, vel1Term_quiet s, xi_11_quiet s]

theorem xi_43_quiet (s : Site K) : xi_43 (quiet s) = xi_43 s := by
  simp only [
    xi_43, xi_271_quiet s, u_1_quiet s]

theorem xi_44_quiet (s : Site K) : xi_44 (quiet s) = xi_44 s := by
  simp only [
    xi_44, xi_43_quiet s]

theorem xi_49_quiet (s : Site K) : xi_49 (quiet s) = xi_49 s := by
  simp only [
    xi_49, xi_44_quiet s]

theorem xi_71_quiet (s : Site K) : xi_71 (quiet s) = xi_71 s := by
  simp only [
    xi_71, u_1_quiet s]

theorem xi_74_quiet (s : Site K) : xi_74 (quiet s) = xi_74 s := by
  simp only [
    xi_74, xi_73_quiet s, xi_277_quiet s, xi_72_quiet s, u_0_quiet s, xi_71_quiet s]

theorem xi_119_quiet (s : Site K) : xi_119 (quiet s) = xi_119 s := by
  simp only [
    xi_119, rho_quiet s, u_1_quiet s]

theorem xi_120_quiet (s : Site K) : xi_120 (quiet s) = xi_120 s := by
  simp only [
    xi_120, xi_20_quiet s, xi_118_quiet s, xi_119_quiet s]

theorem xi_131_quiet (s : Site K) : xi_131 (quiet s) = xi_131 s := by
  simp only [
    xi_131, rho_quiet s, u_1_quiet s]

theorem xi_132_quiet (s : Site K) : xi_132 (quiet s) = xi_132 s := by
  simp only [
    xi_132, xi_265_quiet s, xi_37_quiet s, xi_118_quiet s, vel1Term_quiet s, xi_131_quiet s]

theorem u_2_quiet (s : Site K) : u_2 (quiet s) = u_2 s := by
  simp only [
    u_2, xi_272_quiet s, xi_27_quiet s, xi_30_quiet s, vel2Term_quiet s, xi_11_quiet s]

theorem xi_45_quiet (s : Site K) : xi_45 (quiet s) = xi_45 s := by
  simp only [
    xi_45, xi_273_quiet s, u_2_quiet s]

theorem xi_46_quiet (s : Site K) : xi_46 (quiet s) = xi_46 s := by
  simp only [
    xi_46, xi_45_quiet s]

theorem xi_47_quiet (s : Site K) : xi_47 (quiet s) = xi_47 s := by
  simp only [
    xi_47, xi_40_quiet s, xi_42_quiet s, xi_44_quiet s, xi_46_quiet s]

theorem xi_50_quiet (s : Site K) : xi_50 (quiet s) = xi_50 s := by
  simp only [
    xi_50, xi_48_quiet s, xi_49_quiet s, xi_45_quiet s]

theorem xi_54_quiet (s : Site K) : xi_54 (quiet s) = xi_54 s := by
  simp only [
    xi_54, xi_46_quiet s]

theorem xi_55_quiet (s : Site K) : xi_55 (quiet s) = xi_55 s := by
  simp only [
    xi_55, xi_48_quiet s, xi_43_quiet s, xi_54_quiet s]

theorem xi_56_quiet (s : Site K) : xi_56 (quiet s) = xi_56 s := by
  simp only [
    xi_56, xi_41_quiet s, xi_49_quiet s, xi_54_quiet s]

theorem xi_88_quiet (s : Site K) : xi_88 (quiet s) = xi_88 s := by
  simp only [
    xi_88, xi_73_quiet s, xi_273_quiet s, xi_72_quiet s, xi_71_quiet s, u_2_quiet s]

theorem xi_94_quiet (s : Site K) : xi_94 (quiet s) = xi_94 s := by
  simp only [
    xi_94, xi_73_quiet s, xi_273_quiet s, xi_277_quiet s, u_0_quiet s, u_2_quiet s]

theorem xi_115_quiet (s : Site K) : xi_115 (quiet s) = xi_115 s := by
  simp only [
    xi_115, rho_quiet s, u_2_quiet s]

theorem xi_123_quiet (s : Site K) : xi_123 (quiet s) = xi_123 s := by
  simp only [
    xi_123, xi_263_quiet s, xi_24_quiet s, xi_28_quiet s, xi_117_quiet s, xi_122_quiet s,
    xi_114_quiet s, xi_120_quiet s, xi_115_quiet s, quiet_omega_bulk s]

theorem xi_155_quiet (s : Site K) : xi_155 (quiet s) = xi_155 s := by
  simp only [
    xi_155, xi_261_quiet s, xi_267_quiet s, xi_115_quiet s]

theorem xi_156_quiet (s : Site K) : xi_156 (quiet s) = xi_156 s := by
  simp only [
    xi_156, xi_260_quiet s, xi_1_quiet s, xi_18_quiet s, xi_23_quiet s, xi_31_quiet s,
    xi_120_quiet s, xi_155_quiet s, quiet_omega_shear s]

theorem xi_159_quiet (s : Site K) : xi_159 (quiet s) = xi_159 s := by
  simp only [
    xi_159, xi_260_quiet s, xi_266_quiet s, xi_268_quiet s, xi_278_quiet s, xi_20_quiet s,
    xi_111_quiet s, xi_118_quiet s, xi_122_quiet s, xi_114_quiet s, xi_119_quiet s, xi_155_quiet
    s, quiet_omega_shear s]

theorem xi_182_quiet (s : Site K) : xi_182 (quiet s) = xi_182 s := by
  simp only [
    xi_182, xi_262_quiet s, xi_10_quiet s, xi_116_quiet s, xi_121_quiet s, xi_179_quiet s,
    vel2Term_quiet s, rho_quiet s, u_2_quiet s]

theorem p_1_quiet (s : Site K) : p_1 (quiet s) = p_1 s := by
  simp only [
    p_1, xi_33_quiet s]

theorem xi_208_quiet (s : Site K) : xi_208 (quiet s) = xi_208 s := by
  simp only [
    xi_208, xi_207_quiet s, u_0_quiet s, xi_131_quiet s, p_1_quiet s]

theorem p_2_quiet (s : Site K) : p_2 (quiet s) = p_2 s := by
  simp only [
    p_2, xi_36_quiet s]

theorem xi_247_quiet (s : Site K) : xi_247 (quiet s) = xi_247 s := by
  simp only [
    xi_247, xi_207_quiet s, xi_165_quiet s, u_2_quiet s, p_2_quiet s]

theorem p_5_quiet (s : Site K) : p_5 (quiet s) = p_5 s := by
  simp only [
    p_5, xi_39_quiet s]

theorem xi_217_quiet (s : Site K) : xi_217 (quiet s) = xi_217 s := by
  simp only [
    xi_217, xi_207_quiet s, xi_131_quiet s, u_2_quiet s, p_5_quiet s]

/-- The density of the collision is the sum of the nineteen populations read at the cell. -/
theorem rho_eq_sum [CharZero K] (s : Site K) : rho s = ∑ q, s._data_pdfs s.ctr_0 s.ctr_1 s.ctr_2 q := by
  rw [sum19]
  simp only [
    xi_259, xi_260, xi_261, xi_262, xi_263, xi_264, xi_265, xi_266, xi_267, xi_268, xi_269,
    xi_270, xi_272, xi_274, xi_275, xi_276, xi_278, xi_279, xi_280, xi_0, xi_1, xi_2, xi_3, xi_4,
    xi_5, xi_6, xi_7, xi_8, xi_9, xi_10, vel0Term, vel1Term, vel2Term, rho]
  ring

theorem xi_102_eq (s : Site K) : xi_102 s = noiseAmplitude s (rho s) s.omega_even := by
  simp only [xi_102, xi_101, noiseAmplitude]
  congr 1
  ring

theorem xi_136_eq (s : Site K) : xi_136 s = noiseAmplitude s (rho s) s.omega_odd := by
  simp only [xi_136, xi_101, noiseAmplitude]
  congr 1
  ring

theorem xi_152_eq (s : Site K) : xi_152 s = noiseAmplitude s (rho s) s.omega_shear := by
  simp only [xi_152, xi_101, xi_51, noiseAmplitude]
  congr 1
  ring

theorem xi_106_eq (s : Site K) :
    xi_106 s = (random_2_1 s - 1 / 2) * (24494897427831779 / 10000000000000000)
      * noiseAmplitude s (rho s) s.omega_bulk := by
  have h : s.sqrt (s.kT * rho s * (-((-s.omega_bulk + 1) * (-s.omega_bulk + 1)) + 1))
      = noiseAmplitude s (rho s) s.omega_bulk := by
    simp only [noiseAmplitude]
    congr 1
    ring
  simp only [xi_106, xi_105, xi_101, xi_40, h]
  ring

theorem store_0_noise [CharZero K] (s : Site K) (hsqrt : s.sqrt 0 = 0) :
    store_0 s = store_0 (quiet s)
        + (-(24494897427831779 / 10000000000000000)) * (random_2_1 s - 1 / 2) * noiseAmplitude s (∑ q, s._data_pdfs s.ctr_0 s.ctr_1 s.ctr_2 q) s.omega_bulk
        + (37416573867739413 / 70000000000000000) * (random_6_0 s - 1 / 2) * noiseAmplitude s (∑ q, s._data_pdfs s.ctr_0 s.ctr_1 s.ctr_2 q) s.omega_even
        + (62749501990055667 / 87500000000000000) * (random_6_1 s - 1 / 2) * noiseAmplitude s (∑ q, s._data_pdfs s.ctr_0 s.ctr_1 s.ctr_2 q) s.omega_even
        + (13693063937629153 / 12500000000000000) * (random_7_0 s - 1 / 2) * noiseAmplitude s (∑ q, s._data_pdfs s.ctr_0 s.ctr_1 s.ctr_2 q) s.omega_even := by
  obtain ⟨z_xi_101, z_xi_102, z_xi_103, z_xi_104, z_xi_106, z_xi_107, z_xi_136, z_xi_137, z_xi_138,
      z_xi_139, z_xi_147, z_xi_148, z_xi_149, z_xi_152, z_xi_153, z_xi_154, z_xi_160, z_xi_171,
      z_xi_175, z_xi_185, z_xi_189, z_xi_193, z_xi_196, z_xi_206, z_xi_215, z_xi_219, z_xi_220,
      z_xi_226, z_xi_227, z_xi_228, z_xi_229, z_xi_236, z_xi_237, z_xi_241, z_xi_244, z_xi_246,
      z_xi_251, z_xi_252⟩ :=
    noise_zero (quiet s) rfl hsqrt
  rw [← rho_eq_sum s]
  simp only [
    xi_51, xi_52, xi_53, xi_263, xi_103, xi_104, xi_107, forceTerm_0, store_0,
    z_xi_102, z_xi_106, z_xi_136, z_xi_152,
    xi_110_quiet s, xi_113_quiet s, xi_127_quiet s, xi_123_quiet s, xi_156_quiet s, xi_159_quiet
    s, xi_128_quiet s, xi_143_quiet s, xi_168_quiet s, xi_172_quiet s, xi_180_quiet s,
    xi_186_quiet s, xi_132_quiet s, xi_166_quiet s, xi_182_quiet s, xi_208_quiet s, xi_217_quiet
    s, xi_247_quiet s, xi_47_quiet s, xi_50_quiet s, xi_55_quiet s, xi_56_quiet s, xi_74_quiet s,
    xi_88_quiet s, xi_94_quiet s, u_0_quiet s, u_1_quiet s, u_2_quiet s, rho_quiet s, xi_11_quiet
    s,
    xi_102_eq s, xi_136_eq s, xi_152_eq s, xi_106_eq s,
    quiet_sqrt s, quiet__data_force s, quiet__data_pdfs s, quiet_omega_bulk s, quiet_omega_even s,
    quiet_omega_odd s, quiet_omega_shear s, quiet_ctr_0 s, quiet_ctr_1 s, quiet_ctr_2 s,
    zero_mul, mul_zero, add_zero, zero_add, sub_zero]
  ring

theorem store_1_noise [CharZero K] (s : Site K) (hsqrt : s.sqrt 0 = 0) :
    store_1 s = store_1 (quiet s)
        + (-(4330127018922193 / 15000000000000000)) * (random_0_0 s - 1 / 2) * noiseAmplitude s (∑ q, s._data_pdfs s.ctr_0 s.ctr_1 s.ctr_2 q) s.omega_shear
        + (1 / 2) * (random_0_1 s - 1 / 2) * noiseAmplitude s (∑ q, s._data_pdfs s.ctr_0 s.ctr_1 s.ctr_2 q) s.omega_shear
        + (-(24494897427831779 / 60000000000000000)) * (random_3_0 s - 1 / 2) * noiseAmplitude s (∑ q, s._data_pdfs s.ctr_0 s.ctr_1 s.ctr_2 q) s.omega_odd
        + (-(14142135623730951 / 20000000000000000)) * (random_5_1 s - 1 / 2) * noiseAmplitude s (∑ q, s._data_pdfs s.ctr_0 s.ctr_1 s.ctr_2 q) s.omega_odd
        + (-(12472191289246471 / 28000000000000000)) * (random_6_0 s - 1 / 2) * noiseAmplitude s (∑ q, s._data_pdfs s.ctr_0 s.ctr_1 s.ctr_2 q) s.omega_even
        + (20916500663351889 / 87500000000000000) * (random_6_1 s - 1 / 2) * noiseAmplitude s (∑ q, s._data_pdfs s.ctr_0 s.ctr_1 s.ctr_2 q) s.omega_even
        + (-(13693063937629153 / 25000000000000000)) * (random_7_0 s - 1 / 2) * noiseAmplitude s (∑ q, s._data_pdfs s.ctr_0 s.ctr_1 s.ctr_2 q) s.omega_even := by
  obtain ⟨z_xi_101, z_xi_102, z_xi_103, z_xi_104, z_xi_106, z_xi_107, z_xi_136, z_xi_137, z_xi_138,
      z_xi_139, z_xi_147, z_xi_148, z_xi_149, z_xi_152, z_xi_153, z_xi_154, z_xi_160, z_xi_171,
      z_xi_175, z_xi_185, z_xi_189, z_xi_193, z_xi_196, z_xi_206, z_xi_215, z_xi_219, z_xi_220,
      z_xi_226, z_xi_227, z_xi_228, z_xi_229, z_xi_236, z_xi_237, z_xi_241, z_xi_244, z_xi_246,
      z_xi_251, z_xi_252⟩ :=
    noise_zero (quiet s) rfl hsqrt
  rw [← rho_eq_sum s]
  simp only [
    xi_51, xi_52, xi_58, xi_63, xi_105, xi_129, xi_144, rr_0, xi_133, xi_260, xi_271, xi_57,
    xi_130, xi_135, xi_145, xi_146, xi_151, xi_103, xi_104, xi_107, xi_137, xi_138, xi_139,
    xi_147, xi_148, xi_149, xi_150, xi_153, xi_154, xi_158, xi_160, xi_134, xi_59, xi_60, xi_61,
    xi_62, xi_64, xi_157, xi_161, xi_162, xi_163, forceTerm_1, store_1,
    z_xi_102, z_xi_106, z_xi_136, z_xi_152,
    xi_110_quiet s, xi_113_quiet s, xi_127_quiet s, xi_123_quiet s, xi_156_quiet s, xi_159_quiet
    s, xi_128_quiet s, xi_143_quiet s, xi_168_quiet s, xi_172_quiet s, xi_180_quiet s,
    xi_186_quiet s, xi_132_quiet s, xi_166_quiet s, xi_182_quiet s, xi_208_quiet s, xi_217_quiet
    s, xi_247_quiet s, xi_47_quiet s, xi_50_quiet s, xi_55_quiet s, xi_56_quiet s, xi_74_quiet s,
    xi_88_quiet s, xi_94_quiet s, u_0_quiet s, u_1_quiet s, u_2_quiet s, rho_quiet s, xi_11_quiet
    s,
    xi_102_eq s, xi_136_eq s, xi_152_eq s, xi_106_eq s,
    quiet_sqrt s, quiet__data_force s, quiet__data_pdfs s, quiet_omega_bulk s, quiet_omega_even s,
    quiet_omega_odd s, quiet_omega_shear s, quiet_ctr_0 s, quiet_ctr_1 s, quiet_ctr_2 s,
    zero_mul, mul_zero, add_zero, zero_add, sub_zero]
  ring

theorem store_2_noise [CharZero K] (s : Site K) (hsqrt : s.sqrt 0 = 0) :
    store_2 s = store_2 (quiet s)
        + (-(4330127018922193 / 15000000000000000)) * (random_0_0 s - 1 / 2) * noiseAmplitude s (∑ q, s._data_pdfs s.ctr_0 s.ctr_1 s.ctr_2 q) s.omega_shear
        + (1 / 2) * (random_0_1 s - 1 / 2) * noiseAmplitude s (∑ q, s._data_pdfs s.ctr_0 s.ctr_1 s.ctr_2 q) s.omega_shear
        + (24494897427831779 / 60000000000000000) * (random_3_0 s - 1 / 2) * noiseAmplitude s (∑ q, s._data_pdfs s.ctr_0 s.ctr_1 s.ctr_2 q) s.omega_odd
        + (14142135623730951 / 20000000000000000) * (random_5_1 s - 1 / 2) * noiseAmplitude s (∑ q, s._data_pdfs s.ctr_0 s.ctr_1 s.ctr_2 q) s.omega_odd
        + (-(12472191289246471 / 28000000000000000)) * (random_6_0 s - 1 / 2) * noiseAmplitude s (∑ q, s._data_pdfs s.ctr_0 s.ctr_1 s.ctr_2 q) s.omega_even
        + (20916500663351889 / 87500000000000000) * (random_6_1 s - 1 / 2) * noiseAmplitude s (∑ q, s._data_pdfs s.ctr_0 s.ctr_1 s.ctr_2 q) s.omega_even
        + (-(13693063937629153 / 25000000000000000)) * (random_7_0 s - 1 / 2) * noiseAmplitude s (∑ q, s._data_pdfs s.ctr_0 s.ctr_1 s.ctr_2 q) s.omega_even := by
  obtain ⟨z_xi_101, z_xi_102, z_xi_103, z_xi_104, z_xi_106, z_xi_107, z_xi_136, z_xi_137, z_xi_138,
      z_xi_139, z_xi_147, z_xi_148, z_xi_149, z_xi_152, z_xi_153, z_xi_154, z_xi_160, z_xi_171,
      z_xi_175, z_xi_185, z_xi_189, z_xi_193, z_xi_196, z_xi_206, z_xi_215, z_xi_219, z_xi_220,
      z_xi_226, z_xi_227, z_xi_228, z_xi_229, z_xi_236, z_xi_237, z_xi_241, z_xi_244, z_xi_246,
      z_xi_251, z_xi_252⟩ :=
    noise_zero (quiet s) rfl hsqrt
  rw [← rho_eq_sum s]
  simp only [
    xi_51, xi_52, xi_58, xi_63, xi_105, xi_129, xi_144, rr_0, xi_133, xi_271, xi_278, xi_57,
    xi_130, xi_135, xi_145, xi_146, xi_151, xi_103, xi_104, xi_107, xi_137, xi_138, xi_139,
    xi_147, xi_148, xi_149, xi_153, xi_154, xi_158, xi_160, xi_164, xi_134, xi_59, xi_60, xi_61,
    xi_62, xi_64, xi_157, xi_161, xi_162, xi_163, forceTerm_2, store_2,
    z_xi_102, z_xi_106, z_xi_136, z_xi_152,
    xi_110_quiet s, xi_113_quiet s, xi_127_quiet s, xi_123_quiet s, xi_156_quiet s, xi_159_quiet
    s, xi_128_quiet s, xi_143_quiet s, xi_168_quiet s, xi_172_quiet s, xi_180_quiet s,
    xi_186_quiet s, xi_132_quiet s, xi_166_quiet s, xi_182_quiet s, xi_208_quiet s, xi_217_quiet
    s, xi_247_quiet s, xi_47_quiet s, xi_50_quiet s, xi_55_quiet s, xi_56_quiet s, xi_74_quiet s,
    xi_88_quiet s, xi_94_quiet s, u_0_quiet s, u_1_quiet s, u_2_quiet s, rho_quiet s, xi_11_quiet
    s,
    xi_102_eq s, xi_136_eq s, xi_152_eq s, xi_106_eq s,
    quiet_sqrt s, quiet__data_force s, quiet__data_pdfs s, quiet_omega_bulk s, quiet_omega_even s,
    quiet_omega_odd s, quiet_omega_shear s, quiet_ctr_0 s, quiet_ctr_1 s, quiet_ctr_2 s,
    zero_mul, mul_zero, add_zero, zero_add, sub_zero]
  ring

theorem store_3_noise [CharZero K] (s : Site K) (hsqrt : s.sqrt 0 = 0) :
    store_3 s = store_3 (quiet s)
        + (4330127018922193 / 7500000000000000) * (random_0_0 s - 1 / 2) * noiseAmplitude s (∑ q, s._data_pdfs s.ctr_0 s.ctr_1 s.ctr_2 q) s.omega_shear
        + (24494897427831779 / 60000000000000000) * (random_4_0 s - 1 / 2) * noiseAmplitude s (∑ q, s._data_pdfs s.ctr_0 s.ctr_1 s.ctr_2 q) s.omega_odd
        + (14142135623730951 / 20000000000000000) * (random_4_1 s - 1 / 2) * noiseAmplitude s (∑ q, s._data_pdfs s.ctr_0 s.ctr_1 s.ctr_2 q) s.omega_odd
        + (-(12472191289246471 / 28000000000000000)) * (random_6_0 s - 1 / 2) * noiseAmplitude s (∑ q, s._data_pdfs s.ctr_0 s.ctr_1 s.ctr_2 q) s.omega_even
        + (-(20916500663351889 / 35000000000000000)) * (random_6_1 s - 1 / 2) * noiseAmplitude s (∑ q, s._data_pdfs s.ctr_0 s.ctr_1 s.ctr_2 q) s.omega_even := by
  obtain ⟨z_xi_101, z_xi_102, z_xi_103, z_xi_104, z_xi_106, z_xi_107, z_xi_136, z_xi_137, z_xi_138,
      z_xi_139, z_xi_147, z_xi_148, z_xi_149, z_xi_152, z_xi_153, z_xi_154, z_xi_160, z_xi_171,
      z_xi_175, z_xi_185, z_xi_189, z_xi_193, z_xi_196, z_xi_206, z_xi_215, z_xi_219, z_xi_220,
      z_xi_226, z_xi_227, z_xi_228, z_xi_229, z_xi_236, z_xi_237, z_xi_241, z_xi_244, z_xi_246,
      z_xi_251, z_xi_252⟩ :=
    noise_zero (quiet s) rfl hsqrt
  rw [← rho_eq_sum s]
  simp only [
    xi_51, xi_52, xi_58, xi_63, xi_105, xi_129, xi_144, rr_0, xi_133, xi_268, xi_277, xi_65,
    xi_169, xi_170, xi_173, xi_174, xi_103, xi_107, xi_137, xi_138, xi_147, xi_148, xi_158,
    xi_160, xi_171, xi_175, xi_176, xi_167, xi_59, xi_60, xi_66, xi_67, xi_68, xi_177,
    forceTerm_3, store_3,
    z_xi_102, z_xi_106, z_xi_136, z_xi_152,
    xi_110_quiet s, xi_113_quiet s, xi_127_quiet s, xi_123_quiet s, xi_156_quiet s, xi_159_quiet
    s, xi_128_quiet s, xi_143_quiet s, xi_168_quiet s, xi_172_quiet s, xi_180_quiet s,
    xi_186_quiet s, xi_132_quiet s, xi_166_quiet s, xi_182_quiet s, xi_208_quiet s, xi_217_quiet
    s, xi_247_quiet s, xi_47_quiet s, xi_50_quiet s, xi_55_quiet s, xi_56_quiet s, xi_74_quiet s,
    xi_88_quiet s, xi_94_quiet s, u_0_quiet s, u_1_quiet s, u_2_quiet s, rho_quiet s, xi_11_quiet
    s,
    xi_102_eq s, xi_136_eq s, xi_152_eq s, xi_106_eq s,
    quiet_sqrt s, quiet__data_force s, quiet__data_pdfs s, quiet_omega_bulk s, quiet_omega_even s,
    quiet_omega_odd s, quiet_omega_shear s, quiet_ctr_0 s, quiet_ctr_1 s, quiet_ctr_2 s,
    zero_mul, mul_zero, add_zero, zero_add, sub_zero]
  ring

theorem store_4_noise [CharZero K] (s : Site K) (hsqrt : s.sqrt 0 = 0) :
    store_4 s = store_4 (quiet s)
        + (4330127018922193 / 7500000000000000) * (random_0_0 s - 1 / 2) * noiseAmplitude s (∑ q, s._data_pdfs s.ctr_0 s.ctr_1 s.ctr_2 q) s.omega_shear
        + (-(24494897427831779 / 60000000000000000)) * (random_4_0 s - 1 / 2) * noiseAmplitude s (∑ q, s._data_pdfs s.ctr_0 s.ctr_1 s.ctr_2 q) s.omega_odd
        + (-(14142135623730951 / 20000000000000000)) * (random_4_1 s - 1 / 2) * noiseAmplitude s (∑ q, s._data_pdfs s.ctr_0 s.ctr_1 s.ctr_2 q) s.omega_odd
        + (-(12472191289246471 / 28000000000000000)) * (random_6_0 s - 1 / 2) * noiseAmplitude s (∑ q, s._data_pdfs s.ctr_0 s.ctr_1 s.ctr_2 q) s.omega_even
        + (-(20916500663351889 / 35000000000000000)) * (random_6_1 s - 1 / 2) * noiseAmplitude s (∑ q, s._data_pdfs s.ctr_0 s.ctr_1 s.ctr_2 q) s.omega_even := by
  obtain ⟨z_xi_101, z_xi_102, z_xi_103, z_xi_104, z_xi_106, z_xi_107, z_xi_136, z_xi_137, z_xi_138,
      z_xi_139, z_xi_147, z_xi_148, z_xi_149, z_xi_152, z_xi_153, z_xi_154, z_xi_160, z_xi_171,
      z_xi_175, z_xi_185, z_xi_189, z_xi_193, z_xi_196, z_xi_206, z_xi_215, z_xi_219, z_xi_220,
      z_xi_226, z_xi_227, z_xi_228, z_xi_229, z_xi_236, z_xi_237, z_xi_241, z_xi_244, z_xi_246,
      z_xi_251, z_xi_252⟩ :=
    noise_zero (quiet s) rfl hsqrt
  rw [← rho_eq_sum s]
  simp only [
    xi_51, xi_52, xi_58, xi_63, xi_105, xi_129, xi_144, rr_0, xi_133, xi_266, xi_277, xi_65,
    xi_169, xi_170, xi_173, xi_174, xi_103, xi_107, xi_137, xi_138, xi_147, xi_148, xi_158,
    xi_160, xi_171, xi_175, xi_178, xi_167, xi_59, xi_60, xi_66, xi_67, xi_68, xi_177,
    forceTerm_4, store_4,
    z_xi_102, z_xi_106, z_xi_136, z_xi_152,
    xi_110_quiet s, xi_113_quiet s, xi_127_quiet s, xi_123_quiet s, xi_156_quiet s, xi_159_quiet
    s, xi_128_quiet s, xi_143_quiet s, xi_168_quiet s, xi_172_quiet s, xi_180_quiet s,
    xi_186_quiet s, xi_132_quiet s, xi_166_quiet s, xi_182_quiet s, xi_208_quiet s, xi_217_quiet
    s, xi_247_quiet s, xi_47_quiet s, xi_50_quiet s, xi_55_quiet s, xi_56_quiet s, xi_74_quiet s,
    xi_88_quiet s, xi_94_quiet s, u_0_quiet s, u_1_quiet s, u_2_quiet s, rho_quiet s, xi_11_quiet
    s,
    xi_102_eq s, xi_136_eq s, xi_152_eq s, xi_106_eq s,
    quiet_sqrt s, quiet__data_force s, quiet__data_pdfs s, quiet_omega_bulk s, quiet_omega_even s,
    quiet_omega_odd s, quiet_omega_shear s, quiet_ctr_0 s, quiet_ctr_1 s, quiet_ctr_2 s,
    zero_mul, mul_zero, add_zero, zero_add, sub_zero]
  ring

theorem store_5_noise [CharZero K] (s : Site K) (hsqrt : s.sqrt 0 = 0) :
    store_5 s = store_5 (quiet s)
        + (-(4330127018922193 / 15000000000000000)) * (random_0_0 s - 1 / 2) * noiseAmplitude s (∑ q, s._data_pdfs s.ctr_0 s.ctr_1 s.ctr_2 q) s.omega_shear
        + (-(1 / 2)) * (random_0_1 s - 1 / 2) * noiseAmplitude s (∑ q, s._data_pdfs s.ctr_0 s.ctr_1 s.ctr_2 q) s.omega_shear
        + (-(24494897427831779 / 60000000000000000)) * (random_3_1 s - 1 / 2) * noiseAmplitude s (∑ q, s._data_pdfs s.ctr_0 s.ctr_1 s.ctr_2 q) s.omega_odd
        + (-(14142135623730951 / 20000000000000000)) * (random_5_0 s - 1 / 2) * noiseAmplitude s (∑ q, s._data_pdfs s.ctr_0 s.ctr_1 s.ctr_2 q) s.omega_odd
        + (12472191289246471 / 35000000000000000) * (random_6_0 s - 1 / 2) * noiseAmplitude s (∑ q, s._data_pdfs s.ctr_0 s.ctr_1 s.ctr_2 q) s.omega_even
        + (-(62749501990055667 / 175000000000000000)) * (random_6_1 s - 1 / 2) * noiseAmplitude s (∑ q, s._data_pdfs s.ctr_0 s.ctr_1 s.ctr_2 q) s.omega_even
        + (-(13693063937629153 / 25000000000000000)) * (random_7_0 s - 1 / 2) * noiseAmplitude s (∑ q, s._data_pdfs s.ctr_0 s.ctr_1 s.ctr_2 q) s.omega_even := by
  obtain ⟨z_xi_101, z_xi_102, z_xi_103, z_xi_104, z_xi_106, z_xi_107, z_xi_136, z_xi_137, z_xi_138,
      z_xi_139, z_xi_147, z_xi_148, z_xi_149, z_xi_152, z_xi_153, z_xi_154, z_xi_160, z_xi_171,
      z_xi_175, z_xi_185, z_xi_189, z_xi_193, z_xi_196, z_xi_206, z_xi_215, z_xi_219, z_xi_220,
      z_xi_226, z_xi_227, z_xi_228, z_xi_229, z_xi_236, z_xi_237, z_xi_241, z_xi_244, z_xi_246,
      z_xi_251, z_xi_252⟩ :=
    noise_zero (quiet s) rfl hsqrt
  rw [← rho_eq_sum s]
  simp only [
    xi_51, xi_52, xi_58, xi_63, xi_105, xi_129, xi_144, rr_0, xi_133, xi_261, xi_273, xi_69,
    xi_151, xi_181, xi_184, xi_187, xi_188, xi_103, xi_104, xi_107, xi_137, xi_138, xi_147,
    xi_148, xi_153, xi_154, xi_160, xi_185, xi_189, xi_190, xi_61, xi_62, xi_66, xi_67, xi_70,
    xi_157, xi_161, xi_162, xi_183, xi_191, forceTerm_5, store_5,
    z_xi_102, z_xi_106, z_xi_136, z_xi_152,
    xi_110_quiet s, xi_113_quiet s, xi_127_quiet s, xi_123_quiet s, xi_156_quiet s, xi_159_quiet
    s, xi_128_quiet s, xi_143_quiet s, xi_168_quiet s, xi_172_quiet s, xi_180_quiet s,
    xi_186_quiet s, xi_132_quiet s, xi_166_quiet s, xi_182_quiet s, xi_208_quiet s, xi_217_quiet
    s, xi_247_quiet s, xi_47_quiet s, xi_50_quiet s, xi_55_quiet s, xi_56_quiet s, xi_74_quiet s,
    xi_88_quiet s, xi_94_quiet s, u_0_quiet s, u_1_quiet s, u_2_quiet s, rho_quiet s, xi_11_quiet
    s,
    xi_102_eq s, xi_136_eq s, xi_152_eq s, xi_106_eq s,
    quiet_sqrt s, quiet__data_force s, quiet__data_pdfs s, quiet_omega_bulk s, quiet_omega_even s,
    quiet_omega_odd s, quiet_omega_shear s, quiet_ctr_0 s, quiet_ctr_1 s, quiet_ctr_2 s,
    zero_mul, mul_zero, add_zero, zero_add, sub_zero]
  ring

theorem store_6_noise [CharZero K] (s : Site K) (hsqrt : s.sqrt 0 = 0) :
    store_6 s = store_6 (quiet s)
        + (-(4330127018922193 / 15000000000000000)) * (random_0_0 s - 1 / 2) * noiseAmplitude s (∑ q, s._data_pdfs s.ctr_0 s.ctr_1 s.ctr_2 q) s.omega_shear
        + (-(1 / 2)) * (random_0_1 s - 1 / 2) * noiseAmplitude s (∑ q, s._data_pdfs s.ctr_0 s.ctr_1 s.ctr_2 q) s.omega_shear
        + (24494897427831779 / 60000000000000000) * (random_3_1 s - 1 / 2) * noiseAmplitude s (∑ q, s._data_pdfs s.ctr_0 s.ctr_1 s.ctr_2 q) s.omega_odd
        + (14142135623730951 / 20000000000000000) * (random_5_0 s - 1 / 2) * noiseAmplitude s (∑ q, s._data_pdfs s.ctr_0 s.ctr_1 s.ctr_2 q) s.omega_odd
        + (12472191289246471 / 35000000000000000) * (random_6_0 s - 1 / 2) * noiseAmplitude s (∑ q, s._data_pdfs s.ctr_0 s.ctr_1 s.ctr_2 q) s.omega_even
        + (-(62749501990055667 / 175000000000000000)) * (random_6_1 s - 1 / 2) * noiseAmplitude s (∑ q, s._data_pdfs s.ctr_0 s.ctr_1 s.ctr_2 q) s.omega_even
        + (-(13693063937629153 / 25000000000000000)) * (random_7_0 s - 1 / 2) * noiseAmplitude s (∑ q, s._data_pdfs s.ctr_0 s.ctr_1 s.ctr_2 q) s.omega_even := by
  obtain ⟨z_xi_101, z_xi_102, z_xi_103, z_xi_104, z_xi_106, z_xi_107, z_xi_136, z_xi_137, z_xi_138,
      z_xi_139, z_xi_147, z_xi_148, z_xi_149, z_xi_152, z_xi_153, z_xi_154, z_xi_160, z_xi_171,
      z_xi_175, z_xi_185, z_xi_189, z_xi_193, z_xi_196, z_xi_206, z_xi_215, z_xi_219, z_xi_220,
      z_xi_226, z_xi_227, z_xi_228, z_xi_229, z_xi_236, z_xi_237, z_xi_241, z_xi_244, z_xi_246,
      z_xi_251, z_xi_252⟩ :=
    noise_zero (quiet s) rfl hsqrt
  rw [← rho_eq_sum s]
  simp only [
    xi_51, xi_52, xi_58, xi_63, xi_105, xi_129, xi_144, rr_0, xi_133, xi_267, xi_273, xi_69,
    xi_151, xi_181, xi_184, xi_187, xi_188, xi_103, xi_104, xi_107, xi_137, xi_138, xi_147,
    xi_148, xi_153, xi_154, xi_160, xi_185, xi_189, xi_192, xi_61, xi_62, xi_66, xi_67, xi_70,
    xi_157, xi_161, xi_162, xi_183, xi_191, forceTerm_6, store_6,
    z_xi_102, z_xi_106, z_xi_136, z_xi_152,
    xi_110_quiet s, xi_113_quiet s, xi_127_quiet s, xi_123_quiet s, xi_156_quiet s, xi_159_quiet
    s, xi_128_quiet s, xi_143_quiet s, xi_168_quiet s, xi_172_quiet s, xi_180_quiet s,
    xi_186_quiet s, xi_132_quiet s, xi_166_quiet s, xi_182_quiet s, xi_208_quiet s, xi_217_quiet
    s, xi_247_quiet s, xi_47_quiet s, xi_50_quiet s, xi_55_quiet s, xi_56_quiet s, xi_74_quiet s,
    xi_88_quiet s, xi_94_quiet s, u_0_quiet s, u_1_quiet s, u_2_quiet s, rho_quiet s, xi_11_quiet
    s,
    xi_102_eq s, xi_136_eq s, xi_152_eq s, xi_106_eq s,
    quiet_sqrt s, quiet__data_force s, quiet__data_pdfs s, quiet_omega_bulk s, quiet_omega_even s,
    quiet_omega_odd s, quiet_omega_shear s, quiet_ctr_0 s, quiet_ctr_1 s, quiet_ctr_2 s,
    zero_mul, mul_zero, add_zero, zero_add, sub_zero]
  ring

theorem store_7_noise [CharZero K] (s : Site K) (hsqrt : s.sqrt 0 = 0) :
    store_7 s = store_7 (quiet s)
        + (4330127018922193 / 30000000000000000) * (random_0_0 s - 1 / 2) * noiseAmplitude s (∑ q, s._data_pdfs s.ctr_0 s.ctr_1 s.ctr_2 q) s.omega_shear
        + (1 / 4) * (random_0_1 s - 1 / 2) * noiseAmplitude s (∑ q, s._data_pdfs s.ctr_0 s.ctr_1 s.ctr_2 q) s.omega_shear
        + (-(1 / 2)) * (random_1_0 s - 1 / 2) * noiseAmplitude s (∑ q, s._data_pdfs s.ctr_0 s.ctr_1 s.ctr_2 q) s.omega_shear
        + (24494897427831779 / 120000000000000000) * (random_2_1 s - 1 / 2) * noiseAmplitude s (∑ q, s._data_pdfs s.ctr_0 s.ctr_1 s.ctr_2 q) s.omega_bulk
        + (24494897427831779 / 60000000000000000) * (random_3_0 s - 1 / 2) * noiseAmplitude s (∑ q, s._data_pdfs s.ctr_0 s.ctr_1 s.ctr_2 q) s.omega_odd
        + (-(24494897427831779 / 60000000000000000)) * (random_4_0 s - 1 / 2) * noiseAmplitude s (∑ q, s._data_pdfs s.ctr_0 s.ctr_1 s.ctr_2 q) s.omega_odd
        + (12472191289246471 / 40000000000000000) * (random_6_0 s - 1 / 2) * noiseAmplitude s (∑ q, s._data_pdfs s.ctr_0 s.ctr_1 s.ctr_2 q) s.omega_even := by
  obtain ⟨z_xi_101, z_xi_102, z_xi_103, z_xi_104, z_xi_106, z_xi_107, z_xi_136, z_xi_137, z_xi_138,
      z_xi_139, z_xi_147, z_xi_148, z_xi_149, z_xi_152, z_xi_153, z_xi_154, z_xi_160, z_xi_171,
      z_xi_175, z_xi_185, z_xi_189, z_xi_193, z_xi_196, z_xi_206, z_xi_215, z_xi_219, z_xi_220,
      z_xi_226, z_xi_227, z_xi_228, z_xi_229, z_xi_236, z_xi_237, z_xi_241, z_xi_244, z_xi_246,
      z_xi_251, z_xi_252⟩ :=
    noise_zero (quiet s) rfl hsqrt
  rw [← rho_eq_sum s]
  simp only [
    xi_51, xi_52, xi_58, xi_78, xi_105, xi_144, rr_0, xi_197, xi_269, xi_271, xi_277, xi_76,
    xi_80, xi_145, xi_146, xi_151, xi_173, xi_174, xi_195, xi_103, xi_147, xi_148, xi_149, xi_153,
    xi_160, xi_164, xi_175, xi_178, xi_193, xi_196, xi_206, xi_202, xi_75, xi_198, xi_61, xi_66,
    xi_77, xi_79, xi_81, xi_82, xi_83, xi_84, xi_194, xi_199, xi_200, xi_201, xi_203, xi_204,
    xi_205, xi_209, forceTerm_7, store_7,
    z_xi_102, z_xi_106, z_xi_136, z_xi_152,
    xi_110_quiet s, xi_113_quiet s, xi_127_quiet s, xi_123_quiet s, xi_156_quiet s, xi_159_quiet
    s, xi_128_quiet s, xi_143_quiet s, xi_168_quiet s, xi_172_quiet s, xi_180_quiet s,
    xi_186_quiet s, xi_132_quiet s, xi_166_quiet s, xi_182_quiet s, xi_208_quiet s, xi_217_quiet
    s, xi_247_quiet s, xi_47_quiet s, xi_50_quiet s, xi_55_quiet s, xi_56_quiet s, xi_74_quiet s,
    xi_88_quiet s, xi_94_quiet s, u_0_quiet s, u_1_quiet s, u_2_quiet s, rho_quiet s, xi_11_quiet
    s,
    xi_102_eq s, xi_136_eq s, xi_152_eq s, xi_106_eq s,
    quiet_sqrt s, quiet__data_force s, quiet__data_pdfs s, quiet_omega_bulk s, quiet_omega_even s,
    quiet_omega_odd s, quiet_omega_shear s, quiet_ctr_0 s, quiet_ctr_1 s, quiet_ctr_2 s,
    zero_mul, mul_zero, add_zero, zero_add, sub_zero]
  ring

theorem store_8_noise [CharZero K] (s : Site K) (hsqrt : s.sqrt 0 = 0) :
    store_8 s = store_8 (quiet s)
        + (4330127018922193 / 30000000000000000) * (random_0_0 s - 1 / 2) * noiseAmplitude s (∑ q, s._data_pdfs s.ctr_0 s.ctr_1 s.ctr_2 q) s.omega_shear
        + (1 / 4) * (random_0_1 s - 1 / 2) * noiseAmplitude s (∑ q, s._data_pdfs s.ctr_0 s.ctr_1 s.ctr_2 q) s.omega_shear
        + (1 / 2) * (random_1_0 s - 1 / 2) * noiseAmplitude s (∑ q, s._data_pdfs s.ctr_0 s.ctr_1 s.ctr_2 q) s.omega_shear
        + (24494897427831779 / 120000000000000000) * (random_2_1 s - 1 / 2) * noiseAmplitude s (∑ q, s._data_pdfs s.ctr_0 s.ctr_1 s.ctr_2 q) s.omega_bulk
        + (24494897427831779 / 60000000000000000) * (random_3_0 s - 1 / 2) * noiseAmplitude s (∑ q, s._data_pdfs s.ctr_0 s.ctr_1 s.ctr_2 q) s.omega_odd
        + (24494897427831779 / 60000000000000000) * (random_4_0 s - 1 / 2) * noiseAmplitude s (∑ q, s._data_pdfs s.ctr_0 s.ctr_1 s.ctr_2 q) s.omega_odd
        + (12472191289246471 / 40000000000000000) * (random_6_0 s - 1 / 2) * noiseAmplitude s (∑ q, s._data_pdfs s.ctr_0 s.ctr_1 s.ctr_2 q) s.omega_even := by
  obtain ⟨z_xi_101, z_xi_102, z_xi_103, z_xi_104, z_xi_106, z_xi_107, z_xi_136, z_xi_137, z_xi_138,
      z_xi_139, z_xi_147, z_xi_148, z_xi_149, z_xi_152, z_xi_153, z_xi_154, z_xi_160, z_xi_171,
      z_xi_175, z_xi_185, z_xi_189, z_xi_193, z_xi_196, z_xi_206, z_xi_215, z_xi_219, z_xi_220,
      z_xi_226, z_xi_227, z_xi_228, z_xi_229, z_xi_236, z_xi_237, z_xi_241, z_xi_244, z_xi_246,
      z_xi_251, z_xi_252⟩ :=
    noise_zero (quiet s) rfl hsqrt
  rw [← rho_eq_sum s]
  simp only [
    xi_51, xi_52, xi_58, xi_78, xi_105, xi_144, rr_0, xi_197, xi_259, xi_271, xi_277, xi_76,
    xi_80, xi_145, xi_146, xi_151, xi_173, xi_174, xi_195, xi_103, xi_147, xi_148, xi_149, xi_153,
    xi_160, xi_164, xi_175, xi_176, xi_193, xi_196, xi_206, xi_202, xi_198, xi_61, xi_66, xi_79,
    xi_81, xi_82, xi_83, xi_84, xi_85, xi_194, xi_199, xi_200, xi_201, xi_203, xi_211, xi_212,
    xi_210, forceTerm_8, store_8,
    z_xi_102, z_xi_106, z_xi_136, z_xi_152,
    xi_110_quiet s, xi_113_quiet s, xi_127_quiet s, xi_123_quiet s, xi_156_quiet s, xi_159_quiet
    s, xi_128_quiet s, xi_143_quiet s, xi_168_quiet s, xi_172_quiet s, xi_180_quiet s,
    xi_186_quiet s, xi_132_quiet s, xi_166_quiet s, xi_182_quiet s, xi_208_quiet s, xi_217_quiet
    s, xi_247_quiet s, xi_47_quiet s, xi_50_quiet s, xi_55_quiet s, xi_56_quiet s, xi_74_quiet s,
    xi_88_quiet s, xi_94_quiet s, u_0_quiet s, u_1_quiet s, u_2_quiet s, rho_quiet s, xi_11_quiet
    s,
    xi_102_eq s, xi_136_eq s, xi_152_eq s, xi_106_eq s,
    quiet_sqrt s, quiet__data_force s, quiet__data_pdfs s, quiet_omega_bulk s, quiet_omega_even s,
    quiet_omega_odd s, quiet_omega_shear s, quiet_ctr_0 s, quiet_ctr_1 s, quiet_ctr_2 s,
    zero_mul, mul_zero, add_zero, zero_add, sub_zero]
  ring

theorem store_9_noise [CharZero K] (s : Site K) (hsqrt : s.sqrt 0 = 0) :
    store_9 s = store_9 (quiet s)
        + (4330127018922193 / 30000000000000000) * (random_0_0 s - 1 / 2) * noiseAmplitude s (∑ q, s._data_pdfs s.ctr_0 s.ctr_1 s.ctr_2 q) s.omega_shear
        + (1 / 4) * (random_0_1 s - 1 / 2) * noiseAmplitude s (∑ q, s._data_pdfs s.ctr_0 s.ctr_1 s.ctr_2 q) s.omega_shear
        + (1 / 2) * (random_1_0 s - 1 / 2) * noiseAmplitude s (∑ q, s._data_pdfs s.ctr_0 s.ctr_1 s.ctr_2 q) s.omega_shear
        + (24494897427831779 / 120000000000000000) * (random_2_1 s - 1 / 2) * noiseAmplitude s (∑ q, s._data_pdfs s.ctr_0 s.ctr_1 s.ctr_2 q) s.omega_bulk
        + (-(24494897427831779 / 60000000000000000)) * (random_3_0 s - 1 / 2) * noiseAmplitude s (∑ q, s._data_pdfs s.ctr_0 s.ctr_1 s.ctr_2 q) s.omega_odd
        + (-(24494897427831779 / 60000000000000000)) * (random_4_0 s - 1 / 2) * noiseAmplitude s (∑ q, s._data_pdfs s.ctr_0 s.ctr_1 s.ctr_2 q) s.omega_odd
        + (12472191289246471 / 40000000000000000) * (random_6_0 s - 1 / 2) * noiseAmplitude s (∑ q, s._data_pdfs s.ctr_0 s.ctr_1 s.ctr_2 q) s.omega_even := by
  obtain ⟨z_xi_101, z_xi_102, z_xi_103, z_xi_104, z_xi_106, z_xi_107, z_xi_136, z_xi_137, z_xi_138,
      z_xi_139, z_xi_147, z_xi_148, z_xi_149, z_xi_152, z_xi_153, z_xi_154, z_xi_160, z_xi_171,
      z_xi_175, z_xi_185, z_xi_189, z_xi_193, z_xi_196, z_xi_206, z_xi_215, z_xi_219, z_xi_220,
      z_xi_226, z_xi_227, z_xi_228, z_xi_229, z_xi_236, z_xi_237, z_xi_241, z_xi_244, z_xi_246,
      z_xi_251, z_xi_252⟩ :=
    noise_zero (quiet s) rfl hsqrt
  rw [← rho_eq_sum s]
  simp only [
    xi_51, xi_52, xi_58, xi_78, xi_105, xi_144, rr_0, xi_197, xi_271, xi_274, xi_277, xi_76,
    xi_80, xi_145, xi_146, xi_151, xi_173, xi_174, xi_195, xi_103, xi_147, xi_148, xi_149, xi_150,
    xi_153, xi_160, xi_175, xi_178, xi_193, xi_196, xi_206, xi_202, xi_198, xi_61, xi_66, xi_77,
    xi_79, xi_81, xi_82, xi_86, xi_87, xi_194, xi_199, xi_203, xi_204, xi_205, xi_213, xi_214,
    xi_210, forceTerm_9, store_9,
    z_xi_102, z_xi_106, z_xi_136, z_xi_152,
    xi_110_quiet s, xi_113_quiet s, xi_127_quiet s, xi_123_quiet s, xi_156_quiet s, xi_159_quiet
    s, xi_128_quiet s, xi_143_quiet s, xi_168_quiet s, xi_172_quiet s, xi_180_quiet s,
    xi_186_quiet s, xi_132_quiet s, xi_166_quiet s, xi_182_quiet s, xi_208_quiet s, xi_217_quiet
    s, xi_247_quiet s, xi_47_quiet s, xi_50_quiet s, xi_55_quiet s, xi_56_quiet s, xi_74_quiet s,
    xi_88_quiet s, xi_94_quiet s, u_0_quiet s, u_1_quiet s, u_2_quiet s, rho_quiet s, xi_11_quiet
    s,
    xi_102_eq s, xi_136_eq s, xi_152_eq s, xi_106_eq s,
    quiet_sqrt s, quiet__data_force s, quiet__data_pdfs s, quiet_omega_bulk s, quiet_omega_even s,
    quiet_omega_odd s, quiet_omega_shear s, quiet_ctr_0 s, quiet_ctr_1 s, quiet_ctr_2 s,
    zero_mul, mul_zero, add_zero, zero_add, sub_zero]
  ring

theorem store_10_noise [CharZero K] (s : Site K) (hsqrt : s.sqrt 0 = 0) :
    store_10 s = store_10 (quiet s)
        + (4330127018922193 / 30000000000000000) * (random_0_0 s - 1 / 2) * noiseAmplitude s (∑ q, s._data_pdfs s.ctr_0 s.ctr_1 s.ctr_2 q) s.omega_shear
        + (1 / 4) * (random_0_1 s - 1 / 2) * noiseAmplitude s (∑ q, s._data_pdfs s.ctr_0 s.ctr_1 s.ctr_2 q) s.omega_shear
        + (-(1 / 2)) * (random_1_0 s - 1 / 2) * noiseAmplitude s (∑ q, s._data_pdfs s.ctr_0 s.ctr_1 s.ctr_2 q) s.omega_shear
        + (24494897427831779 / 120000000000000000) * (random_2_1 s - 1 / 2) * noiseAmplitude s (∑ q, s._data_pdfs s.ctr_0 s.ctr_1 s.ctr_2 q) s.omega_bulk
        + (-(24494897427831779 / 60000000000000000)) * (random_3_0 s - 1 / 2) * noiseAmplitude s (∑ q, s._data_pdfs s.ctr_0 s.ctr_1 s.ctr_2 q) s.omega_odd
        + (24494897427831779 / 60000000000000000) * (random_4_0 s - 1 / 2) * noiseAmplitude s (∑ q, s._data_pdfs s.ctr_0 s.ctr_1 s.ctr_2 q) s.omega_odd
        + (12472191289246471 / 40000000000000000) * (random_6_0 s - 1 / 2) * noiseAmplitude s (∑ q, s._data_pdfs s.ctr_0 s.ctr_1 s.ctr_2 q) s.omega_even := by
  obtain ⟨z_xi_101, z_xi_102, z_xi_103, z_xi_104, z_xi_106, z_xi_107, z_xi_136, z_xi_137, z_xi_138,
      z_xi_139, z_xi_147, z_xi_148, z_xi_149, z_xi_152, z_xi_153, z_xi_154, z_xi_160, z_xi_171,
      z_xi_175, z_xi_185, z_xi_189, z_xi_193, z_xi_196, z_xi_206, z_xi_215, z_xi_219, z_xi_220,
      z_xi_226, z_xi_227, z_xi_228, z_xi_229, z_xi_236, z_xi_237, z_xi_241, z_xi_244, z_xi_246,
      z_xi_251, z_xi_252⟩ :=
    noise_zero (quiet s) rfl hsqrt
  rw [← rho_eq_sum s]
  simp only [
    xi_51, xi_52, xi_58, xi_78, xi_105, xi_144, rr_0, xi_197, xi_265, xi_271, xi_277, xi_76,
    xi_80, xi_145, xi_146, xi_151, xi_173, xi_174, xi_195, xi_103, xi_147, xi_148, xi_149, xi_150,
    xi_153, xi_160, xi_175, xi_176, xi_193, xi_196, xi_206, xi_202, xi_75, xi_198, xi_61, xi_66,
    xi_79, xi_81, xi_82, xi_85, xi_86, xi_87, xi_194, xi_199, xi_203, xi_211, xi_212, xi_213,
    xi_214, xi_209, forceTerm_10, store_10,
    z_xi_102, z_xi_106, z_xi_136, z_xi_152,
    xi_110_quiet s, xi_113_quiet s, xi_127_quiet s, xi_123_quiet s, xi_156_quiet s, xi_159_quiet
    s, xi_128_quiet s, xi_143_quiet s, xi_168_quiet s, xi_172_quiet s, xi_180_quiet s,
    xi_186_quiet s, xi_132_quiet s, xi_166_quiet s, xi_182_quiet s, xi_208_quiet s, xi_217_quiet
    s, xi_247_quiet s, xi_47_quiet s, xi_50_quiet s, xi_55_quiet s, xi_56_quiet s, xi_74_quiet s,
    xi_88_quiet s, xi_94_quiet s, u_0_quiet s, u_1_quiet s, u_2_quiet s, rho_quiet s, xi_11_quiet
    s,
    xi_102_eq s, xi_136_eq s, xi_152_eq s, xi_106_eq s,
    quiet_sqrt s, quiet__data_force s, quiet__data_pdfs s, quiet_omega_bulk s, quiet_omega_even s,
    quiet_omega_odd s, quiet_omega_shear s, quiet_ctr_0 s, quiet_ctr_1 s, quiet_ctr_2 s,
    zero_mul, mul_zero, add_zero, zero_add, sub_zero]
  ring

theorem store_11_noise [CharZero K] (s : Site K) (hsqrt : s.sqrt 0 = 0) :
    store_11 s = store_11 (quiet s)
        + (-(4330127018922193 / 15000000000000000)) * (random_0_0 s - 1 / 2) * noiseAmplitude s (∑ q, s._data_pdfs s.ctr_0 s.ctr_1 s.ctr_2 q) s.omega_shear
        + (1 / 2) * (random_2_0 s - 1 / 2) * noiseAmplitude s (∑ q, s._data_pdfs s.ctr_0 s.ctr_1 s.ctr_2 q) s.omega_shear
        + (24494897427831779 / 120000000000000000) * (random_2_1 s - 1 / 2) * noiseAmplitude s (∑ q, s._data_pdfs s.ctr_0 s.ctr_1 s.ctr_2 q) s.omega_bulk
        + (-(24494897427831779 / 120000000000000000)) * (random_3_0 s - 1 / 2) * noiseAmplitude s (∑ q, s._data_pdfs s.ctr_0 s.ctr_1 s.ctr_2 q) s.omega_odd
        + (-(24494897427831779 / 120000000000000000)) * (random_3_1 s - 1 / 2) * noiseAmplitude s (∑ q, s._data_pdfs s.ctr_0 s.ctr_1 s.ctr_2 q) s.omega_odd
        + (14142135623730951 / 40000000000000000) * (random_5_0 s - 1 / 2) * noiseAmplitude s (∑ q, s._data_pdfs s.ctr_0 s.ctr_1 s.ctr_2 q) s.omega_odd
        + (14142135623730951 / 40000000000000000) * (random_5_1 s - 1 / 2) * noiseAmplitude s (∑ q, s._data_pdfs s.ctr_0 s.ctr_1 s.ctr_2 q) s.omega_odd
        + (-(12472191289246471 / 140000000000000000)) * (random_6_0 s - 1 / 2) * noiseAmplitude s (∑ q, s._data_pdfs s.ctr_0 s.ctr_1 s.ctr_2 q) s.omega_even
        + (-(20916500663351889 / 175000000000000000)) * (random_6_1 s - 1 / 2) * noiseAmplitude s (∑ q, s._data_pdfs s.ctr_0 s.ctr_1 s.ctr_2 q) s.omega_even
        + (13693063937629153 / 50000000000000000) * (random_7_0 s - 1 / 2) * noiseAmplitude s (∑ q, s._data_pdfs s.ctr_0 s.ctr_1 s.ctr_2 q) s.omega_even := by
  obtain ⟨z_xi_101, z_xi_102, z_xi_103, z_xi_104, z_xi_106, z_xi_107, z_xi_136, z_xi_137, z_xi_138,
      z_xi_139, z_xi_147, z_xi_148, z_xi_149, z_xi_152, z_xi_153, z_xi_154, z_xi_160, z_xi_171,
      z_xi_175, z_xi_185, z_xi_189, z_xi_193, z_xi_196, z_xi_206, z_xi_215, z_xi_219, z_xi_220,
      z_xi_226, z_xi_227, z_xi_228, z_xi_229, z_xi_236, z_xi_237, z_xi_241, z_xi_244, z_xi_246,
      z_xi_251, z_xi_252⟩ :=
    noise_zero (quiet s) rfl hsqrt
  rw [← rho_eq_sum s]
  simp only [
    xi_51, xi_52, xi_58, xi_78, xi_105, xi_222, xi_224, rr_0, xi_197, xi_264, xi_271, xi_273,
    xi_80, xi_90, xi_135, xi_146, xi_184, xi_188, xi_216, xi_218, xi_223, xi_225, xi_234, xi_235,
    xi_103, xi_104, xi_107, xi_137, xi_147, xi_153, xi_160, xi_215, xi_219, xi_220, xi_226,
    xi_227, xi_228, xi_229, xi_231, xi_236, xi_237, xi_198, xi_59, xi_66, xi_81, xi_82, xi_83,
    xi_89, xi_91, xi_92, xi_161, xi_199, xi_200, xi_230, xi_232, xi_233, xi_238, xi_221,
    forceTerm_11, store_11,
    z_xi_102, z_xi_106, z_xi_136, z_xi_152,
    xi_110_quiet s, xi_113_quiet s, xi_127_quiet s, xi_123_quiet s, xi_156_quiet s, xi_159_quiet
    s, xi_128_quiet s, xi_143_quiet s, xi_168_quiet s, xi_172_quiet s, xi_180_quiet s,
    xi_186_quiet s, xi_132_quiet s, xi_166_quiet s, xi_182_quiet s, xi_208_quiet s, xi_217_quiet
    s, xi_247_quiet s, xi_47_quiet s, xi_50_quiet s, xi_55_quiet s, xi_56_quiet s, xi_74_quiet s,
    xi_88_quiet s, xi_94_quiet s, u_0_quiet s, u_1_quiet s, u_2_quiet s, rho_quiet s, xi_11_quiet
    s,
    xi_102_eq s, xi_136_eq s, xi_152_eq s, xi_106_eq s,
    quiet_sqrt s, quiet__data_force s, quiet__data_pdfs s, quiet_omega_bulk s, quiet_omega_even s,
    quiet_omega_odd s, quiet_omega_shear s, quiet_ctr_0 s, quiet_ctr_1 s, quiet_ctr_2 s,
    zero_mul, mul_zero, add_zero, zero_add, sub_zero]
  ring

theorem store_12_noise [CharZero K] (s : Site K) (hsqrt : s.sqrt 0 = 0) :
    store_12 s = store_12 (quiet s)
        + (-(4330127018922193 / 15000000000000000)) * (random_0_0 s - 1 / 2) * noiseAmplitude s (∑ q, s._data_pdfs s.ctr_0 s.ctr_1 s.ctr_2 q) s.omega_shear
        + (-(1 / 2)) * (random_2_0 s - 1 / 2) * noiseAmplitude s (∑ q, s._data_pdfs s.ctr_0 s.ctr_1 s.ctr_2 q) s.omega_shear
        + (24494897427831779 / 120000000000000000) * (random_2_1 s - 1 / 2) * noiseAmplitude s (∑ q, s._data_pdfs s.ctr_0 s.ctr_1 s.ctr_2 q) s.omega_bulk
        + (24494897427831779 / 120000000000000000) * (random_3_0 s - 1 / 2) * noiseAmplitude s (∑ q, s._data_pdfs s.ctr_0 s.ctr_1 s.ctr_2 q) s.omega_odd
        + (-(24494897427831779 / 120000000000000000)) * (random_3_1 s - 1 / 2) * noiseAmplitude s (∑ q, s._data_pdfs s.ctr_0 s.ctr_1 s.ctr_2 q) s.omega_odd
        + (14142135623730951 / 40000000000000000) * (random_5_0 s - 1 / 2) * noiseAmplitude s (∑ q, s._data_pdfs s.ctr_0 s.ctr_1 s.ctr_2 q) s.omega_odd
        + (-(14142135623730951 / 40000000000000000)) * (random_5_1 s - 1 / 2) * noiseAmplitude s (∑ q, s._data_pdfs s.ctr_0 s.ctr_1 s.ctr_2 q) s.omega_odd
        + (-(12472191289246471 / 140000000000000000)) * (random_6_0 s - 1 / 2) * noiseAmplitude s (∑ q, s._data_pdfs s.ctr_0 s.ctr_1 s.ctr_2 q) s.omega_even
        + (-(20916500663351889 / 175000000000000000)) * (random_6_1 s - 1 / 2) * noiseAmplitude s (∑ q, s._data_pdfs s.ctr_0 s.ctr_1 s.ctr_2 q) s.omega_even
        + (13693063937629153 / 50000000000000000) * (random_7_0 s - 1 / 2) * noiseAmplitude s (∑ q, s._data_pdfs s.ctr_0 s.ctr_1 s.ctr_2 q) s.omega_even := by
  obtain ⟨z_xi_101, z_xi_102, z_xi_103, z_xi_104, z_xi_106, z_xi_107, z_xi_136, z_xi_137, z_xi_138,
      z_xi_139, z_xi_147, z_xi_148, z_xi_149, z_xi_152, z_xi_153, z_xi_154, z_xi_160, z_xi_171,
      z_xi_175, z_xi_185, z_xi_189, z_xi_193, z_xi_196, z_xi_206, z_xi_215, z_xi_219, z_xi_220,
      z_xi_226, z_xi_227, z_xi_228, z_xi_229, z_xi_236, z_xi_237, z_xi_241, z_xi_244, z_xi_246,
      z_xi_251, z_xi_252⟩ :=
    noise_zero (quiet s) rfl hsqrt
  rw [← rho_eq_sum s]
  simp only [
    xi_51, xi_52, xi_58, xi_78, xi_105, xi_222, xi_224, rr_0, xi_197, xi_271, xi_273, xi_279,
    xi_80, xi_90, xi_135, xi_146, xi_184, xi_188, xi_216, xi_218, xi_223, xi_225, xi_234, xi_235,
    xi_103, xi_104, xi_107, xi_137, xi_147, xi_153, xi_160, xi_215, xi_219, xi_220, xi_226,
    xi_227, xi_228, xi_229, xi_231, xi_236, xi_237, xi_198, xi_59, xi_66, xi_81, xi_82, xi_86,
    xi_89, xi_91, xi_92, xi_93, xi_161, xi_199, xi_213, xi_230, xi_232, xi_233, xi_239, xi_240,
    forceTerm_12, store_12,
    z_xi_102, z_xi_106, z_xi_136, z_xi_152,
    xi_110_quiet s, xi_113_quiet s, xi_127_quiet s, xi_123_quiet s, xi_156_quiet s, xi_159_quiet
    s, xi_128_quiet s, xi_143_quiet s, xi_168_quiet s, xi_172_quiet s, xi_180_quiet s,
    xi_186_quiet s, xi_132_quiet s, xi_166_quiet s, xi_182_quiet s, xi_208_quiet s, xi_217_quiet
    s, xi_247_quiet s, xi_47_quiet s, xi_50_quiet s, xi_55_quiet s, xi_56_quiet s, xi_74_quiet s,
    xi_88_quiet s, xi_94_quiet s, u_0_quiet s, u_1_quiet s, u_2_quiet s, rho_quiet s, xi_11_quiet
    s,
    xi_102_eq s, xi_136_eq s, xi_152_eq s, xi_106_eq s,
    quiet_sqrt s, quiet__data_force s, quiet__data_pdfs s, quiet_omega_bulk s, quiet_omega_even s,
    quiet_omega_odd s, quiet_omega_shear s, quiet_ctr_0 s, quiet_ctr_1 s, quiet_ctr_2 s,
    zero_mul, mul_zero, add_zero, zero_add, sub_zero]
  ring

theorem store_13_noise [CharZero K] (s : Site K) (hsqrt : s.sqrt 0 = 0) :
    store_13 s = store_13 (quiet s)
        + (4330127018922193 / 30000000000000000) * (random_0_0 s - 1 / 2) * noiseAmplitude s (∑ q, s._data_pdfs s.ctr_0 s.ctr_1 s.ctr_2 q) s.omega_shear
        + (-(1 / 4)) * (random_0_1 s - 1 / 2) * noiseAmplitude s (∑ q, s._data_pdfs s.ctr_0 s.ctr_1 s.ctr_2 q) s.omega_shear
        + (-(1 / 2)) * (random_1_1 s - 1 / 2) * noiseAmplitude s (∑ q, s._data_pdfs s.ctr_0 s.ctr_1 s.ctr_2 q) s.omega_shear
        + (24494897427831779 / 120000000000000000) * (random_2_1 s - 1 / 2) * noiseAmplitude s (∑ q, s._data_pdfs s.ctr_0 s.ctr_1 s.ctr_2 q) s.omega_bulk
        + (24494897427831779 / 60000000000000000) * (random_3_1 s - 1 / 2) * noiseAmplitude s (∑ q, s._data_pdfs s.ctr_0 s.ctr_1 s.ctr_2 q) s.omega_odd
        + (24494897427831779 / 120000000000000000) * (random_4_0 s - 1 / 2) * noiseAmplitude s (∑ q, s._data_pdfs s.ctr_0 s.ctr_1 s.ctr_2 q) s.omega_odd
        + (-(14142135623730951 / 40000000000000000)) * (random_4_1 s - 1 / 2) * noiseAmplitude s (∑ q, s._data_pdfs s.ctr_0 s.ctr_1 s.ctr_2 q) s.omega_odd
        + (-(12472191289246471 / 140000000000000000)) * (random_6_0 s - 1 / 2) * noiseAmplitude s (∑ q, s._data_pdfs s.ctr_0 s.ctr_1 s.ctr_2 q) s.omega_even
        + (20916500663351889 / 70000000000000000) * (random_6_1 s - 1 / 2) * noiseAmplitude s (∑ q, s._data_pdfs s.ctr_0 s.ctr_1 s.ctr_2 q) s.omega_even := by
  obtain ⟨z_xi_101, z_xi_102, z_xi_103, z_xi_104, z_xi_106, z_xi_107, z_xi_136, z_xi_137, z_xi_138,
      z_xi_139, z_xi_147, z_xi_148, z_xi_149, z_xi_152, z_xi_153, z_xi_154, z_xi_160, z_xi_171,
      z_xi_175, z_xi_185, z_xi_189, z_xi_193, z_xi_196, z_xi_206, z_xi_215, z_xi_219, z_xi_220,
      z_xi_226, z_xi_227, z_xi_228, z_xi_229, z_xi_236, z_xi_237, z_xi_241, z_xi_244, z_xi_246,
      z_xi_251, z_xi_252⟩ :=
    noise_zero (quiet s) rfl hsqrt
  rw [← rho_eq_sum s]
  simp only [
    xi_51, xi_52, xi_58, xi_78, xi_105, xi_144, xi_222, xi_224, rr_0, xi_197, xi_273, xi_275,
    xi_277, xi_76, xi_90, xi_151, xi_170, xi_174, xi_187, xi_188, xi_243, xi_249, xi_250, xi_103,
    xi_107, xi_137, xi_147, xi_148, xi_153, xi_160, xi_189, xi_192, xi_193, xi_226, xi_228,
    xi_231, xi_241, xi_244, xi_246, xi_251, xi_252, xi_202, xi_59, xi_61, xi_77, xi_81, xi_91,
    xi_95, xi_96, xi_97, xi_194, xi_199, xi_203, xi_204, xi_230, xi_232, xi_242, xi_245, xi_253,
    xi_248, forceTerm_13, store_13,
    z_xi_102, z_xi_106, z_xi_136, z_xi_152,
    xi_110_quiet s, xi_113_quiet s, xi_127_quiet s, xi_123_quiet s, xi_156_quiet s, xi_159_quiet
    s, xi_128_quiet s, xi_143_quiet s, xi_168_quiet s, xi_172_quiet s, xi_180_quiet s,
    xi_186_quiet s, xi_132_quiet s, xi_166_quiet s, xi_182_quiet s, xi_208_quiet s, xi_217_quiet
    s, xi_247_quiet s, xi_47_quiet s, xi_50_quiet s, xi_55_quiet s, xi_56_quiet s, xi_74_quiet s,
    xi_88_quiet s, xi_94_quiet s, u_0_quiet s, u_1_quiet s, u_2_quiet s, rho_quiet s, xi_11_quiet
    s,
    xi_102_eq s, xi_136_eq s, xi_152_eq s, xi_106_eq s,
    quiet_sqrt s, quiet__data_force s, quiet__data_pdfs s, quiet_omega_bulk s, quiet_omega_even s,
    quiet_omega_odd s, quiet_omega_shear s, quiet_ctr_0 s, quiet_ctr_1 s, quiet_ctr_2 s,
    zero_mul, mul_zero, add_zero, zero_add, sub_zero]
  ring

theorem store_14_noise [CharZero K] (s : Site K) (hsqrt : s.sqrt 0 = 0) :
    store_14 s = store_14 (quiet s)
        + (4330127018922193 / 30000000000000000) * (random_0_0 s - 1 / 2) * noiseAmplitude s (∑ q, s._data_pdfs s.ctr_0 s.ctr_1 s.ctr_2 q) s.omega_shear
        + (-(1 / 4)) * (random_0_1 s - 1 / 2) * noiseAmplitude s (∑ q, s._data_pdfs s.ctr_0 s.ctr_1 s.ctr_2 q) s.omega_shear
        + (1 / 2) * (random_1_1 s - 1 / 2) * noiseAmplitude s (∑ q, s._data_pdfs s.ctr_0 s.ctr_1 s.ctr_2 q) s.omega_shear
        + (24494897427831779 / 120000000000000000) * (random_2_1 s - 1 / 2) * noiseAmplitude s (∑ q, s._data_pdfs s.ctr_0 s.ctr_1 s.ctr_2 q) s.omega_bulk
        + (24494897427831779 / 60000000000000000) * (random_3_1 s - 1 / 2) * noiseAmplitude s (∑ q, s._data_pdfs s.ctr_0 s.ctr_1 s.ctr_2 q) s.omega_odd
        + (-(24494897427831779 / 120000000000000000)) * (random_4_0 s - 1 / 2) * noiseAmplitude s (∑ q, s._data_pdfs s.ctr_0 s.ctr_1 s.ctr_2 q) s.omega_odd
        + (14142135623730951 / 40000000000000000) * (random_4_1 s - 1 / 2) * noiseAmplitude s (∑ q, s._data_pdfs s.ctr_0 s.ctr_1 s.ctr_2 q) s.omega_odd
        + (-(12472191289246471 / 140000000000000000)) * (random_6_0 s - 1 / 2) * noiseAmplitude s (∑ q, s._data_pdfs s.ctr_0 s.ctr_1 s.ctr_2 q) s.omega_even
        + (20916500663351889 / 70000000000000000) * (random_6_1 s - 1 / 2) * noiseAmplitude s (∑ q, s._data_pdfs s.ctr_0 s.ctr_1 s.ctr_2 q) s.omega_even := by
  obtain ⟨z_xi_101, z_xi_102, z_xi_103, z_xi_104, z_xi_106, z_xi_107, z_xi_136, z_xi_137, z_xi_138,
      z_xi_139, z_xi_147, z_xi_148, z_xi_149, z_xi_152, z_xi_153, z_xi_154, z_xi_160, z_xi_171,
      z_xi_175, z_xi_185, z_xi_189, z_xi_193, z_xi_196, z_xi_206, z_xi_215, z_xi_219, z_xi_220,
      z_xi_226, z_xi_227, z_xi_228, z_xi_229, z_xi_236, z_xi_237, z_xi_241, z_xi_244, z_xi_246,
      z_xi_251, z_xi_252⟩ :=
    noise_zero (quiet s) rfl hsqrt
  rw [← rho_eq_sum s]
  simp only [
    xi_51, xi_52, xi_58, xi_78, xi_105, xi_144, xi_222, xi_224, rr_0, xi_197, xi_272, xi_273,
    xi_277, xi_76, xi_90, xi_151, xi_170, xi_174, xi_187, xi_188, xi_243, xi_249, xi_250, xi_103,
    xi_107, xi_137, xi_147, xi_148, xi_153, xi_160, xi_189, xi_192, xi_193, xi_226, xi_228,
    xi_231, xi_241, xi_244, xi_246, xi_251, xi_252, xi_202, xi_59, xi_61, xi_81, xi_85, xi_91,
    xi_96, xi_97, xi_194, xi_199, xi_203, xi_211, xi_230, xi_232, xi_242, xi_245, xi_255, xi_254,
    forceTerm_14, store_14,
    z_xi_102, z_xi_106, z_xi_136, z_xi_152,
    xi_110_quiet s, xi_113_quiet s, xi_127_quiet s, xi_123_quiet s, xi_156_quiet s, xi_159_quiet
    s, xi_128_quiet s, xi_143_quiet s, xi_168_quiet s, xi_172_quiet s, xi_180_quiet s,
    xi_186_quiet s, xi_132_quiet s, xi_166_quiet s, xi_182_quiet s, xi_208_quiet s, xi_217_quiet
    s, xi_247_quiet s, xi_47_quiet s, xi_50_quiet s, xi_55_quiet s, xi_56_quiet s, xi_74_quiet s,
    xi_88_quiet s, xi_94_quiet s, u_0_quiet s, u_1_quiet s, u_2_quiet s, rho_quiet s, xi_11_quiet
    s,
    xi_102_eq s, xi_136_eq s, xi_152_eq s, xi_106_eq s,
    quiet_sqrt s, quiet__data_force s, quiet__data_pdfs s, quiet_omega_bulk s, quiet_omega_even s,
    quiet_omega_odd s, quiet_omega_shear s, quiet_ctr_0 s, quiet_ctr_1 s, quiet_ctr_2 s,
    zero_mul, mul_zero, add_zero, zero_add, sub_zero]
  ring

theorem store_15_noise [CharZero K] (s : Site K) (hsqrt : s.sqrt 0 = 0) :
    store_15 s = store_15 (quiet s)
        + (-(4330127018922193 / 15000000000000000)) * (random_0_0 s - 1 / 2) * noiseAmplitude s (∑ q, s._data_pdfs s.ctr_0 s.ctr_1 s.ctr_2 q) s.omega_shear
        + (-(1 / 2)) * (random_2_0 s - 1 / 2) * noiseAmplitude s (∑ q, s._data_pdfs s.ctr_0 s.ctr_1 s.ctr_2 q) s.omega_shear
        + (24494897427831779 / 120000000000000000) * (random_2_1 s - 1 / 2) * noiseAmplitude s (∑ q, s._data_pdfs s.ctr_0 s.ctr_1 s.ctr_2 q) s.omega_bulk
        + (-(24494897427831779 / 120000000000000000)) * (random_3_0 s - 1 / 2) * noiseAmplitude s (∑ q, s._data_pdfs s.ctr_0 s.ctr_1 s.ctr_2 q) s.omega_odd
        + (24494897427831779 / 120000000000000000) * (random_3_1 s - 1 / 2) * noiseAmplitude s (∑ q, s._data_pdfs s.ctr_0 s.ctr_1 s.ctr_2 q) s.omega_odd
        + (-(14142135623730951 / 40000000000000000)) * (random_5_0 s - 1 / 2) * noiseAmplitude s (∑ q, s._data_pdfs s.ctr_0 s.ctr_1 s.ctr_2 q) s.omega_odd
        + (14142135623730951 / 40000000000000000) * (random_5_1 s - 1 / 2) * noiseAmplitude s (∑ q, s._data_pdfs s.ctr_0 s.ctr_1 s.ctr_2 q) s.omega_odd
        + (-(12472191289246471 / 140000000000000000)) * (random_6_0 s - 1 / 2) * noiseAmplitude s (∑ q, s._data_pdfs s.ctr_0 s.ctr_1 s.ctr_2 q) s.omega_even
        + (-(20916500663351889 / 175000000000000000)) * (random_6_1 s - 1 / 2) * noiseAmplitude s (∑ q, s._data_pdfs s.ctr_0 s.ctr_1 s.ctr_2 q) s.omega_even
        + (13693063937629153 / 50000000000000000) * (random_7_0 s - 1 / 2) * noiseAmplitude s (∑ q, s._data_pdfs s.ctr_0 s.ctr_1 s.ctr_2 q) s.omega_even := by
  obtain ⟨z_xi_101, z_xi_102, z_xi_103, z_xi_104, z_xi_106, z_xi_107, z_xi_136, z_xi_137, z_xi_138,
      z_xi_139, z_xi_147, z_xi_148, z_xi_149, z_xi_152, z_xi_153, z_xi_154, z_xi_160, z_xi_171,
      z_xi_175, z_xi_185, z_xi_189, z_xi_193, z_xi_196, z_xi_206, z_xi_215, z_xi_219, z_xi_220,
      z_xi_226, z_xi_227, z_xi_228, z_xi_229, z_xi_236, z_xi_237, z_xi_241, z_xi_244, z_xi_246,
      z_xi_251, z_xi_252⟩ :=
    noise_zero (quiet s) rfl hsqrt
  rw [← rho_eq_sum s]
  simp only [
    xi_51, xi_52, xi_58, xi_78, xi_105, xi_222, xi_224, rr_0, xi_197, xi_270, xi_271, xi_273,
    xi_80, xi_90, xi_135, xi_146, xi_184, xi_188, xi_216, xi_218, xi_223, xi_225, xi_234, xi_235,
    xi_103, xi_104, xi_107, xi_137, xi_147, xi_153, xi_160, xi_215, xi_219, xi_220, xi_226,
    xi_227, xi_228, xi_229, xi_231, xi_236, xi_237, xi_198, xi_59, xi_66, xi_81, xi_82, xi_83,
    xi_89, xi_93, xi_98, xi_99, xi_161, xi_199, xi_200, xi_230, xi_238, xi_256, xi_257, xi_240,
    forceTerm_15, store_15,
    z_xi_102, z_xi_106, z_xi_136, z_xi_152,
    xi_110_quiet s, xi_113_quiet s, xi_127_quiet s, xi_123_quiet s, xi_156_quiet s, xi_159_quiet
    s, xi_128_quiet s, xi_143_quiet s, xi_168_quiet s, xi_172_quiet s, xi_180_quiet s,
    xi_186_quiet s, xi_132_quiet s, xi_166_quiet s, xi_182_quiet s, xi_208_quiet s, xi_217_quiet
    s, xi_247_quiet s, xi_47_quiet s, xi_50_quiet s, xi_55_quiet s, xi_56_quiet s, xi_74_quiet s,
    xi_88_quiet s, xi_94_quiet s, u_0_quiet s, u_1_quiet s, u_2_quiet s, rho_quiet s, xi_11_quiet
    s,
    xi_102_eq s, xi_136_eq s, xi_152_eq s, xi_106_eq s,
    quiet_sqrt s, quiet__data_force s, quiet__data_pdfs s, quiet_omega_bulk s, quiet_omega_even s,
    quiet_omega_odd s, quiet_omega_shear s, quiet_ctr_0 s, quiet_ctr_1 s, quiet_ctr_2 s,
    zero_mul, mul_zero, add_zero, zero_add, sub_zero]
  ring

theorem store_16_noise [CharZero K] (s : Site K) (hsqrt : s.sqrt 0 = 0) :
    store_16 s = store_16 (quiet s)
        + (-(4330127018922193 / 15000000000000000)) * (random_0_0 s - 1 / 2) * noiseAmplitude s (∑ q, s._data_pdfs s.ctr_0 s.ctr_1 s.ctr_2 q) s.omega_shear
        + (1 / 2) * (random_2_0 s - 1 / 2) * noiseAmplitude s (∑ q, s._data_pdfs s.ctr_0 s.ctr_1 s.ctr_2 q) s.omega_shear
        + (24494897427831779 / 120000000000000000) * (random_2_1 s - 1 / 2) * noiseAmplitude s (∑ q, s._data_pdfs s.ctr_0 s.ctr_1 s.ctr_2 q) s.omega_bulk
        + (24494897427831779 / 120000000000000000) * (random_3_0 s - 1 / 2) * noiseAmplitude s (∑ q, s._data_pdfs s.ctr_0 s.ctr_1 s.ctr_2 q) s.omega_odd
        + (24494897427831779 / 120000000000000000) * (random_3_1 s - 1 / 2) * noiseAmplitude s (∑ q, s._data_pdfs s.ctr_0 s.ctr_1 s.ctr_2 q) s.omega_odd
        + (-(14142135623730951 / 40000000000000000)) * (random_5_0 s - 1 / 2) * noiseAmplitude s (∑ q, s._data_pdfs s.ctr_0 s.ctr_1 s.ctr_2 q) s.omega_odd
        + (-(14142135623730951 / 40000000000000000)) * (random_5_1 s - 1 / 2) * noiseAmplitude s (∑ q, s._data_pdfs s.ctr_0 s.ctr_1 s.ctr_2 q) s.omega_odd
        + (-(12472191289246471 / 140000000000000000)) * (random_6_0 s - 1 / 2) * noiseAmplitude s (∑ q, s._data_pdfs s.ctr_0 s.ctr_1 s.ctr_2 q) s.omega_even
        + (-(20916500663351889 / 175000000000000000)) * (random_6_1 s - 1 / 2) * noiseAmplitude s (∑ q, s._data_pdfs s.ctr_0 s.ctr_1 s.ctr_2 q) s.omega_even
        + (13693063937629153 / 50000000000000000) * (random_7_0 s - 1 / 2) * noiseAmplitude s (∑ q, s._data_pdfs s.ctr_0 s.ctr_1 s.ctr_2 q) s.omega_even := by
  obtain ⟨z_xi_101, z_xi_102, z_xi_103, z_xi_104, z_xi_106, z_xi_107, z_xi_136, z_xi_137, z_xi_138,
      z_xi_139, z_xi_147, z_xi_148, z_xi_149, z_xi_152, z_xi_153, z_xi_154, z_xi_160, z_xi_171,
      z_xi_175, z_xi_185, z_xi_189, z_xi_193, z_xi_196, z_xi_206, z_xi_215, z_xi_219, z_xi_220,
      z_xi_226, z_xi_227, z_xi_228, z_xi_229, z_xi_236, z_xi_237, z_xi_241, z_xi_244, z_xi_246,
      z_xi_251, z_xi_252⟩ :=
    noise_zero (quiet s) rfl hsqrt
  rw [← rho_eq_sum s]
  simp only [
    xi_51, xi_52, xi_58, xi_78, xi_105, xi_222, xi_224, rr_0, xi_197, xi_271, xi_273, xi_280,
    xi_80, xi_90, xi_135, xi_146, xi_184, xi_188, xi_216, xi_218, xi_223, xi_225, xi_234, xi_235,
    xi_103, xi_104, xi_107, xi_137, xi_147, xi_153, xi_160, xi_215, xi_219, xi_220, xi_226,
    xi_227, xi_228, xi_229, xi_231, xi_236, xi_237, xi_198, xi_59, xi_66, xi_81, xi_82, xi_86,
    xi_89, xi_98, xi_99, xi_161, xi_199, xi_213, xi_230, xi_239, xi_256, xi_257, xi_221,
    forceTerm_16, store_16,
    z_xi_102, z_xi_106, z_xi_136, z_xi_152,
    xi_110_quiet s, xi_113_quiet s, xi_127_quiet s, xi_123_quiet s, xi_156_quiet s, xi_159_quiet
    s, xi_128_quiet s, xi_143_quiet s, xi_168_quiet s, xi_172_quiet s, xi_180_quiet s,
    xi_186_quiet s, xi_132_quiet s, xi_166_quiet s, xi_182_quiet s, xi_208_quiet s, xi_217_quiet
    s, xi_247_quiet s, xi_47_quiet s, xi_50_quiet s, xi_55_quiet s, xi_56_quiet s, xi_74_quiet s,
    xi_88_quiet s, xi_94_quiet s, u_0_quiet s, u_1_quiet s, u_2_quiet s, rho_quiet s, xi_11_quiet
    s,
    xi_102_eq s, xi_136_eq s, xi_152_eq s, xi_106_eq s,
    quiet_sqrt s, quiet__data_force s, quiet__data_pdfs s, quiet_omega_bulk s, quiet_omega_even s,
    quiet_omega_odd s, quiet_omega_shear s, quiet_ctr_0 s, quiet_ctr_1 s, quiet_ctr_2 s,
    zero_mul, mul_zero, add_zero, zero_add, sub_zero]
  ring

theorem store_17_noise [CharZero K] (s : Site K) (hsqrt : s.sqrt 0 = 0) :
    store_17 s = store_17 (quiet s)
        + (4330127018922193 / 30000000000000000) * (random_0_0 s - 1 / 2) * noiseAmplitude s (∑ q, s._data_pdfs s.ctr_0 s.ctr_1 s.ctr_2 q) s.omega_shear
        + (-(1 / 4)) * (random_0_1 s - 1 / 2) * noiseAmplitude s (∑ q, s._data_pdfs s.ctr_0 s.ctr_1 s.ctr_2 q) s.omega_shear
        + (1 / 2) * (random_1_1 s - 1 / 2) * noiseAmplitude s (∑ q, s._data_pdfs s.ctr_0 s.ctr_1 s.ctr_2 q) s.omega_shear
        + (24494897427831779 / 120000000000000000) * (random_2_1 s - 1 / 2) * noiseAmplitude s (∑ q, s._data_pdfs s.ctr_0 s.ctr_1 s.ctr_2 q) s.omega_bulk
        + (-(24494897427831779 / 60000000000000000)) * (random_3_1 s - 1 / 2) * noiseAmplitude s (∑ q, s._data_pdfs s.ctr_0 s.ctr_1 s.ctr_2 q) s.omega_odd
        + (24494897427831779 / 120000000000000000) * (random_4_0 s - 1 / 2) * noiseAmplitude s (∑ q, s._data_pdfs s.ctr_0 s.ctr_1 s.ctr_2 q) s.omega_odd
        + (-(14142135623730951 / 40000000000000000)) * (random_4_1 s - 1 / 2) * noiseAmplitude s (∑ q, s._data_pdfs s.ctr_0 s.ctr_1 s.ctr_2 q) s.omega_odd
        + (-(12472191289246471 / 140000000000000000)) * (random_6_0 s - 1 / 2) * noiseAmplitude s (∑ q, s._data_pdfs s.ctr_0 s.ctr_1 s.ctr_2 q) s.omega_even
        + (20916500663351889 / 70000000000000000) * (random_6_1 s - 1 / 2) * noiseAmplitude s (∑ q, s._data_pdfs s.ctr_0 s.ctr_1 s.ctr_2 q) s.omega_even := by
  obtain ⟨z_xi_101, z_xi_102, z_xi_103, z_xi_104, z_xi_106, z_xi_107, z_xi_136, z_xi_137, z_xi_138,
      z_xi_139, z_xi_147, z_xi_148, z_xi_149, z_xi_152, z_xi_153, z_xi_154, z_xi_160, z_xi_171,
      z_xi_175, z_xi_185, z_xi_189, z_xi_193, z_xi_196, z_xi_206, z_xi_215, z_xi_219, z_xi_220,
      z_xi_226, z_xi_227, z_xi_228, z_xi_229, z_xi_236, z_xi_237, z_xi_241, z_xi_244, z_xi_246,
      z_xi_251, z_xi_252⟩ :=
    noise_zero (quiet s) rfl hsqrt
  rw [← rho_eq_sum s]
  simp only [
    xi_51, xi_52, xi_58, xi_78, xi_105, xi_144, xi_222, xi_224, rr_0, xi_197, xi_273, xi_276,
    xi_277, xi_76, xi_90, xi_151, xi_170, xi_174, xi_187, xi_188, xi_243, xi_249, xi_250, xi_103,
    xi_107, xi_137, xi_147, xi_148, xi_153, xi_160, xi_189, xi_190, xi_193, xi_226, xi_228,
    xi_231, xi_241, xi_244, xi_246, xi_251, xi_252, xi_202, xi_59, xi_61, xi_77, xi_81, xi_96,
    xi_98, xi_100, xi_194, xi_199, xi_203, xi_204, xi_230, xi_242, xi_253, xi_256, xi_258, xi_254,
    forceTerm_17, store_17,
    z_xi_102, z_xi_106, z_xi_136, z_xi_152,
    xi_110_quiet s, xi_113_quiet s, xi_127_quiet s, xi_123_quiet s, xi_156_quiet s, xi_159_quiet
    s, xi_128_quiet s, xi_143_quiet s, xi_168_quiet s, xi_172_quiet s, xi_180_quiet s,
    xi_186_quiet s, xi_132_quiet s, xi_166_quiet s, xi_182_quiet s, xi_208_quiet s, xi_217_quiet
    s, xi_247_quiet s, xi_47_quiet s, xi_50_quiet s, xi_55_quiet s, xi_56_quiet s, xi_74_quiet s,
    xi_88_quiet s, xi_94_quiet s, u_0_quiet s, u_1_quiet s, u_2_quiet s, rho_quiet s, xi_11_quiet
    s,
    xi_102_eq s, xi_136_eq s, xi_152_eq s, xi_106_eq s,
    quiet_sqrt s, quiet__data_force s, quiet__data_pdfs s, quiet_omega_bulk s, quiet_omega_even s,
    quiet_omega_odd s, quiet_omega_shear s, quiet_ctr_0 s, quiet_ctr_1 s, quiet_ctr_2 s,
    zero_mul, mul_zero, add_zero, zero_add, sub_zero]
  ring

theorem store_18_noise [CharZero K] (s : Site K) (hsqrt : s.sqrt 0 = 0) :
    store_18 s = store_18 (quiet s)
        + (4330127018922193 / 30000000000000000) * (random_0_0 s - 1 / 2) * noiseAmplitude s (∑ q, s._data_pdfs s.ctr_0 s.ctr_1 s.ctr_2 q) s.omega_shear
        + (-(1 / 4)) * (random_0_1 s - 1 / 2) * noiseAmplitude s (∑ q, s._data_pdfs s.ctr_0 s.ctr_1 s.ctr_2 q) s.omega_shear
        + (-(1 / 2)) * (random_1_1 s - 1 / 2) * noiseAmplitude s (∑ q, s._data_pdfs s.ctr_0 s.ctr_1 s.ctr_2 q) s.omega_shear
        + (24494897427831779 / 120000000000000000) * (random_2_1 s - 1 / 2) * noiseAmplitude s (∑ q, s._data_pdfs s.ctr_0 s.ctr_1 s.ctr_2 q) s.omega_bulk
        + (-(24494897427831779 / 60000000000000000)) * (random_3_1 s - 1 / 2) * noiseAmplitude s (∑ q, s._data_pdfs s.ctr_0 s.ctr_1 s.ctr_2 q) s.omega_odd
        + (-(24494897427831779 / 120000000000000000)) * (random_4_0 s - 1 / 2) * noiseAmplitude s (∑ q, s._data_pdfs s.ctr_0 s.ctr_1 s.ctr_2 q) s.omega_odd
        + (14142135623730951 / 40000000000000000) * (random_4_1 s - 1 / 2) * noiseAmplitude s (∑ q, s._data_pdfs s.ctr_0 s.ctr_1 s.ctr_2 q) s.omega_odd
        + (-(12472191289246471 / 140000000000000000)) * (random_6_0 s - 1 / 2) * noiseAmplitude s (∑ q, s._data_pdfs s.ctr_0 s.ctr_1 s.ctr_2 q) s.omega_even
        + (20916500663351889 / 70000000000000000) * (random_6_1 s - 1 / 2) * noiseAmplitude s (∑ q, s._data_pdfs s.ctr_0 s.ctr_1 s.ctr_2 q) s.omega_even := by
  obtain ⟨z_xi_101, z_xi_102, z_xi_103, z_xi_104, z_xi_106, z_xi_107, z_xi_136, z_xi_137, z_xi_138,
      z_xi_139, z_xi_147, z_xi_148, z_xi_149, z_xi_152, z_xi_153, z_xi_154, z_xi_160, z_xi_171,
      z_xi_175, z_xi_185, z_xi_189, z_xi_193, z_xi_196, z_xi_206, z_xi_215, z_xi_219, z_xi_220,
      z_xi_226, z_xi_227, z_xi_228, z_xi_229, z_xi_236, z_xi_237, z_xi_241, z_xi_244, z_xi_246,
      z_xi_251, z_xi_252⟩ :=
    noise_zero (quiet s) rfl hsqrt
  rw [← rho_eq_sum s]
  simp only [
    xi_51, xi_52, xi_58, xi_78, xi_105, xi_144, xi_222, xi_224, rr_0, xi_197, xi_262, xi_273,
    xi_277, xi_76, xi_90, xi_151, xi_170, xi_174, xi_187, xi_188, xi_243, xi_249, xi_250, xi_103,
    xi_107, xi_137, xi_147, xi_148, xi_153, xi_160, xi_189, xi_190, xi_193, xi_226, xi_228,
    xi_231, xi_241, xi_244, xi_246, xi_251, xi_252, xi_202, xi_59, xi_61, xi_81, xi_85, xi_95,
    xi_96, xi_98, xi_100, xi_194, xi_199, xi_203, xi_211, xi_230, xi_242, xi_255, xi_256, xi_258,
    xi_248, forceTerm_18, store_18,
    z_xi_102, z_xi_106, z_xi_136, z_xi_152,
    xi_110_quiet s, xi_113_quiet s, xi_127_quiet s, xi_123_quiet s, xi_156_quiet s, xi_159_quiet
    s, xi_128_quiet s, xi_143_quiet s, xi_168_quiet s, xi_172_quiet s, xi_180_quiet s,
    xi_186_quiet s, xi_132_quiet s, xi_166_quiet s, xi_182_quiet s, xi_208_quiet s, xi_217_quiet
    s, xi_247_quiet s, xi_47_quiet s, xi_50_quiet s, xi_55_quiet s, xi_56_quiet s, xi_74_quiet s,
    xi_88_quiet s, xi_94_quiet s, u_0_quiet s, u_1_quiet s, u_2_quiet s, rho_quiet s, xi_11_quiet
    s,
    xi_102_eq s, xi_136_eq s, xi_152_eq s, xi_106_eq s,
    quiet_sqrt s, quiet__data_force s, quiet__data_pdfs s, quiet_omega_bulk s, quiet_omega_even s,
    quiet_omega_odd s, quiet_omega_shear s, quiet_ctr_0 s, quiet_ctr_1 s, quiet_ctr_2 s,
    zero_mul, mul_zero, add_zero, zero_add, sub_zero]
  ring

theorem noiseMoment_row_0 :
    noiseMoment 0 0 = 0 ∧ noiseMoment 0 1 = -1 ∧ noiseMoment 0 2 = -1 ∧ noiseMoment 0 3 = 2 ∧
    noiseMoment 0 4 = 2 ∧ noiseMoment 0 5 = -1 ∧ noiseMoment 0 6 = -1 ∧ noiseMoment 0 7 = 1 ∧
    noiseMoment 0 8 = 1 ∧ noiseMoment 0 9 = 1 ∧ noiseMoment 0 10 = 1 ∧ noiseMoment 0 11 = -2 ∧
    noiseMoment 0 12 = -2 ∧ noiseMoment 0 13 = 1 ∧ noiseMoment 0 14 = 1 ∧ noiseMoment 0 15 = -2 ∧
    noiseMoment 0 16 = -2 ∧ noiseMoment 0 17 = 1 ∧ noiseMoment 0 18 = 1 := by
  decide

theorem noiseMoment_row_1 :
    noiseMoment 1 0 = 0 ∧ noiseMoment 1 1 = 1 ∧ noiseMoment 1 2 = 1 ∧ noiseMoment 1 3 = 0 ∧
    noiseMoment 1 4 = 0 ∧ noiseMoment 1 5 = -1 ∧ noiseMoment 1 6 = -1 ∧ noiseMoment 1 7 = 1 ∧
    noiseMoment 1 8 = 1 ∧ noiseMoment 1 9 = 1 ∧ noiseMoment 1 10 = 1 ∧ noiseMoment 1 11 = 0 ∧
    noiseMoment 1 12 = 0 ∧ noiseMoment 1 13 = -1 ∧ noiseMoment 1 14 = -1 ∧ noiseMoment 1 15 = 0 ∧
    noiseMoment 1 16 = 0 ∧ noiseMoment 1 17 = -1 ∧ noiseMoment 1 18 = -1 := by
  decide

theorem noiseMoment_row_2 :
    noiseMoment 2 0 = 0 ∧ noiseMoment 2 1 = 0 ∧ noiseMoment 2 2 = 0 ∧ noiseMoment 2 3 = 0 ∧
    noiseMoment 2 4 = 0 ∧ noiseMoment 2 5 = 0 ∧ noiseMoment 2 6 = 0 ∧ noiseMoment 2 7 = -1 ∧
    noiseMoment 2 8 = 1 ∧ noiseMoment 2 9 = 1 ∧ noiseMoment 2 10 = -1 ∧ noiseMoment 2 11 = 0 ∧
    noiseMoment 2 12 = 0 ∧ noiseMoment 2 13 = 0 ∧ noiseMoment 2 14 = 0 ∧ noiseMoment 2 15 = 0 ∧
    noiseMoment 2 16 = 0 ∧ noiseMoment 2 17 = 0 ∧ noiseMoment 2 18 = 0 := by
  decide

theorem noiseMoment_row_3 :
    noiseMoment 3 0 = 0 ∧ noiseMoment 3 1 = 0 ∧ noiseMoment 3 2 = 0 ∧ noiseMoment 3 3 = 0 ∧
    noiseMoment 3 4 = 0 ∧ noiseMoment 3 5 = 0 ∧ noiseMoment 3 6 = 0 ∧ noiseMoment 3 7 = 0 ∧
    noiseMoment 3 8 = 0 ∧ noiseMoment 3 9 = 0 ∧ noiseMoment 3 10 = 0 ∧ noiseMoment 3 11 = 0 ∧
    noiseMoment 3 12 = 0 ∧ noiseMoment 3 13 = -1 ∧ noiseMoment 3 14 = 1 ∧ noiseMoment 3 15 = 0 ∧
    noiseMoment 3 16 = 0 ∧ noiseMoment 3 17 = 1 ∧ noiseMoment 3 18 = -1 := by
  decide

theorem noiseMoment_row_4 :
    noiseMoment 4 0 = 0 ∧ noiseMoment 4 1 = 0 ∧ noiseMoment 4 2 = 0 ∧ noiseMoment 4 3 = 0 ∧
    noiseMoment 4 4 = 0 ∧ noiseMoment 4 5 = 0 ∧ noiseMoment 4 6 = 0 ∧ noiseMoment 4 7 = 0 ∧
    noiseMoment 4 8 = 0 ∧ noiseMoment 4 9 = 0 ∧ noiseMoment 4 10 = 0 ∧ noiseMoment 4 11 = 1 ∧
    noiseMoment 4 12 = -1 ∧ noiseMoment 4 13 = 0 ∧ noiseMoment 4 14 = 0 ∧ noiseMoment 4 15 = -1 ∧
    noiseMoment 4 16 = 1 ∧ noiseMoment 4 17 = 0 ∧ noiseMoment 4 18 = 0 := by
  decide

theorem noiseMoment_row_5 :
    noiseMoment 5 0 = -1 ∧ noiseMoment 5 1 = 0 ∧ noiseMoment 5 2 = 0 ∧ noiseMoment 5 3 = 0 ∧
    noiseMoment 5 4 = 0 ∧ noiseMoment 5 5 = 0 ∧ noiseMoment 5 6 = 0 ∧ noiseMoment 5 7 = 1 ∧
    noiseMoment 5 8 = 1 ∧ noiseMoment 5 9 = 1 ∧ noiseMoment 5 10 = 1 ∧ noiseMoment 5 11 = 1 ∧
    noiseMoment 5 12 = 1 ∧ noiseMoment 5 13 = 1 ∧ noiseMoment 5 14 = 1 ∧ noiseMoment 5 15 = 1 ∧
    noiseMoment 5 16 = 1 ∧ noiseMoment 5 17 = 1 ∧ noiseMoment 5 18 = 1 := by
  decide

theorem noiseMoment_row_6 :
    noiseMoment 6 0 = 0 ∧ noiseMoment 6 1 = -1 ∧ noiseMoment 6 2 = 1 ∧ noiseMoment 6 3 = 0 ∧
    noiseMoment 6 4 = 0 ∧ noiseMoment 6 5 = 0 ∧ noiseMoment 6 6 = 0 ∧ noiseMoment 6 7 = 2 ∧
    noiseMoment 6 8 = 2 ∧ noiseMoment 6 9 = -2 ∧ noiseMoment 6 10 = -2 ∧ noiseMoment 6 11 = -1 ∧
    noiseMoment 6 12 = 1 ∧ noiseMoment 6 13 = 0 ∧ noiseMoment 6 14 = 0 ∧ noiseMoment 6 15 = -1 ∧
    noiseMoment 6 16 = 1 ∧ noiseMoment 6 17 = 0 ∧ noiseMoment 6 18 = 0 := by
  decide

theorem noiseMoment_row_7 :
    noiseMoment 7 0 = 0 ∧ noiseMoment 7 1 = 0 ∧ noiseMoment 7 2 = 0 ∧ noiseMoment 7 3 = 0 ∧
    noiseMoment 7 4 = 0 ∧ noiseMoment 7 5 = -1 ∧ noiseMoment 7 6 = 1 ∧ noiseMoment 7 7 = 0 ∧
    noiseMoment 7 8 = 0 ∧ noiseMoment 7 9 = 0 ∧ noiseMoment 7 10 = 0 ∧ noiseMoment 7 11 = -1 ∧
    noiseMoment 7 12 = -1 ∧ noiseMoment 7 13 = 2 ∧ noiseMoment 7 14 = 2 ∧ noiseMoment 7 15 = 1 ∧
    noiseMoment 7 16 = 1 ∧ noiseMoment 7 17 = -2 ∧ noiseMoment 7 18 = -2 := by
  decide

theorem noiseMoment_row_8 :
    noiseMoment 8 0 = 0 ∧ noiseMoment 8 1 = 0 ∧ noiseMoment 8 2 = 0 ∧ noiseMoment 8 3 = 1 ∧
    noiseMoment 8 4 = -1 ∧ noiseMoment 8 5 = 0 ∧ noiseMoment 8 6 = 0 ∧ noiseMoment 8 7 = -2 ∧
    noiseMoment 8 8 = 2 ∧ noiseMoment 8 9 = -2 ∧ noiseMoment 8 10 = 2 ∧ noiseMoment 8 11 = 0 ∧
    noiseMoment 8 12 = 0 ∧ noiseMoment 8 13 = 1 ∧ noiseMoment 8 14 = -1 ∧ noiseMoment 8 15 = 0 ∧
    noiseMoment 8 16 = 0 ∧ noiseMoment 8 17 = 1 ∧ noiseMoment 8 18 = -1 := by
  decide

theorem noiseMoment_row_9 :
    noiseMoment 9 0 = 0 ∧ noiseMoment 9 1 = 0 ∧ noiseMoment 9 2 = 0 ∧ noiseMoment 9 3 = 1 ∧
    noiseMoment 9 4 = -1 ∧ noiseMoment 9 5 = 0 ∧ noiseMoment 9 6 = 0 ∧ noiseMoment 9 7 = 0 ∧
    noiseMoment 9 8 = 0 ∧ noiseMoment 9 9 = 0 ∧ noiseMoment 9 10 = 0 ∧ noiseMoment 9 11 = 0 ∧
    noiseMoment 9 12 = 0 ∧ noiseMoment 9 13 = -1 ∧ noiseMoment 9 14 = 1 ∧ noiseMoment 9 15 = 0 ∧
    noiseMoment 9 16 = 0 ∧ noiseMoment 9 17 = -1 ∧ noiseMoment 9 18 = 1 := by
  decide

theorem noiseMoment_row_10 :
    noiseMoment 10 0 = 0 ∧ noiseMoment 10 1 = 0 ∧ noiseMoment 10 2 = 0 ∧ noiseMoment 10 3 = 0 ∧
    noiseMoment 10 4 = 0 ∧ noiseMoment 10 5 = -1 ∧ noiseMoment 10 6 = 1 ∧ noiseMoment 10 7 = 0 ∧
    noiseMoment 10 8 = 0 ∧ noiseMoment 10 9 = 0 ∧ noiseMoment 10 10 = 0 ∧ noiseMoment 10 11 = 1 ∧
    noiseMoment 10 12 = 1 ∧ noiseMoment 10 13 = 0 ∧ noiseMoment 10 14 = 0 ∧ noiseMoment 10 15 = -1
    ∧ noiseMoment 10 16 = -1 ∧ noiseMoment 10 17 = 0 ∧ noiseMoment 10 18 = 0 := by
  decide

theorem noiseMoment_row_11 :
    noiseMoment 11 0 = 0 ∧ noiseMoment 11 1 = -1 ∧ noiseMoment 11 2 = 1 ∧ noiseMoment 11 3 = 0 ∧
    noiseMoment 11 4 = 0 ∧ noiseMoment 11 5 = 0 ∧ noiseMoment 11 6 = 0 ∧ noiseMoment 11 7 = 0 ∧
    noiseMoment 11 8 = 0 ∧ noiseMoment 11 9 = 0 ∧ noiseMoment 11 10 = 0 ∧ noiseMoment 11 11 = 1 ∧
    noiseMoment 11 12 = -1 ∧ noiseMoment 11 13 = 0 ∧ noiseMoment 11 14 = 0 ∧ noiseMoment 11 15 = 1
    ∧ noiseMoment 11 16 = -1 ∧ noiseMoment 11 17 = 0 ∧ noiseMoment 11 18 = 0 := by
  decide

theorem noiseMoment_row_12 :
    noiseMoment 12 0 = 1 ∧ noiseMoment 12 1 = -5 ∧ noiseMoment 12 2 = -5 ∧ noiseMoment 12 3 = -5 ∧
    noiseMoment 12 4 = -5 ∧ noiseMoment 12 5 = 4 ∧ noiseMoment 12 6 = 4 ∧ noiseMoment 12 7 = 7 ∧
    noiseMoment 12 8 = 7 ∧ noiseMoment 12 9 = 7 ∧ noiseMoment 12 10 = 7 ∧ noiseMoment 12 11 = -2 ∧
    noiseMoment 12 12 = -2 ∧ noiseMoment 12 13 = -2 ∧ noiseMoment 12 14 = -2 ∧ noiseMoment 12 15 =
    -2 ∧ noiseMoment 12 16 = -2 ∧ noiseMoment 12 17 = -2 ∧ noiseMoment 12 18 = -2 := by
  decide

theorem noiseMoment_row_13 :
    noiseMoment 13 0 = 1 ∧ noiseMoment 13 1 = 2 ∧ noiseMoment 13 2 = 2 ∧ noiseMoment 13 3 = -5 ∧
    noiseMoment 13 4 = -5 ∧ noiseMoment 13 5 = -3 ∧ noiseMoment 13 6 = -3 ∧ noiseMoment 13 7 = 0 ∧
    noiseMoment 13 8 = 0 ∧ noiseMoment 13 9 = 0 ∧ noiseMoment 13 10 = 0 ∧ noiseMoment 13 11 = -2 ∧
    noiseMoment 13 12 = -2 ∧ noiseMoment 13 13 = 5 ∧ noiseMoment 13 14 = 5 ∧ noiseMoment 13 15 =
    -2 ∧ noiseMoment 13 16 = -2 ∧ noiseMoment 13 17 = 5 ∧ noiseMoment 13 18 = 5 := by
  decide

theorem noiseMoment_row_14 :
    noiseMoment 14 0 = 1 ∧ noiseMoment 14 1 = -3 ∧ noiseMoment 14 2 = -3 ∧ noiseMoment 14 3 = 0 ∧
    noiseMoment 14 4 = 0 ∧ noiseMoment 14 5 = -3 ∧ noiseMoment 14 6 = -3 ∧ noiseMoment 14 7 = 0 ∧
    noiseMoment 14 8 = 0 ∧ noiseMoment 14 9 = 0 ∧ noiseMoment 14 10 = 0 ∧ noiseMoment 14 11 = 3 ∧
    noiseMoment 14 12 = 3 ∧ noiseMoment 14 13 = 0 ∧ noiseMoment 14 14 = 0 ∧ noiseMoment 14 15 = 3
    ∧ noiseMoment 14 16 = 3 ∧ noiseMoment 14 17 = 0 ∧ noiseMoment 14 18 = 0 := by
  decide

theorem noise_moment_0 [CharZero K] (s : Site K) (hsqrt : s.sqrt 0 = 0) :
    ∑ q, (noiseMoment 0 q : K) * values s q
      = ∑ q, (noiseMoment 0 q : K) * values (quiet s) q
        + (random_0_0 s - 1 / 2) * (4330127018922193 / 625000000000000) * noiseAmplitude s (∑ q, s._data_pdfs s.ctr_0 s.ctr_1 s.ctr_2 q) s.omega_shear := by
  obtain ⟨v0, v1, v2, v3, v4, v5, v6, v7, v8, v9, v10, v11, v12, v13, v14, v15, v16, v17, v18⟩ := values_apply s
  obtain ⟨y0, y1, y2, y3, y4, y5, y6, y7, y8, y9, y10, y11, y12, y13, y14, y15, y16, y17, y18⟩ := values_apply (quiet s)
  obtain ⟨m0, m1, m2, m3, m4, m5, m6, m7, m8, m9, m10, m11, m12, m13, m14, m15, m16, m17, m18⟩ := noiseMoment_row_0
  rw [sum19, sum19, v0, v1, v2, v3, v4, v5, v6, v7, v8, v9, v10, v11, v12, v13, v14, v15, v16, v17, v18,
    y0, y1, y2, y3, y4, y5, y6, y7, y8, y9, y10, y11, y12, y13, y14, y15, y16, y17, y18,
    m0, m1, m2, m3, m4, m5, m6, m7, m8, m9, m10, m11, m12, m13, m14, m15, m16, m17, m18,
    store_0_noise s hsqrt, store_1_noise s hsqrt, store_2_noise s hsqrt, store_3_noise s hsqrt, store_4_noise s hsqrt, store_5_noise s hsqrt, store_6_noise s hsqrt, store_7_noise s hsqrt, store_8_noise s hsqrt, store_9_noise s hsqrt, store_10_noise s hsqrt, store_11_noise s hsqrt, store_12_noise s hsqrt, store_13_noise s hsqrt, store_14_noise s hsqrt, store_15_noise s hsqrt, store_16_noise s hsqrt, store_17_noise s hsqrt, store_18_noise s hsqrt]
  push_cast
  ring

theorem noise_moment_1 [CharZero K] (s : Site K) (hsqrt : s.sqrt 0 = 0) :
    ∑ q, (noiseMoment 1 q : K) * values s q
      = ∑ q, (noiseMoment 1 q : K) * values (quiet s) q
        + (random_0_1 s - 1 / 2) * 4 * noiseAmplitude s (∑ q, s._data_pdfs s.ctr_0 s.ctr_1 s.ctr_2 q) s.omega_shear := by
  obtain ⟨v0, v1, v2, v3, v4, v5, v6, v7, v8, v9, v10, v11, v12, v13, v14, v15, v16, v17, v18⟩ := values_apply s
  obtain ⟨y0, y1, y2, y3, y4, y5, y6, y7, y8, y9, y10, y11, y12, y13, y14, y15, y16, y17, y18⟩ := values_apply (quiet s)
  obtain ⟨m0, m1, m2, m3, m4, m5, m6, m7, m8, m9, m10, m11, m12, m13, m14, m15, m16, m17, m18⟩ := noiseMoment_row_1
  rw [sum19, sum19, v0, v1, v2, v3, v4, v5, v6, v7, v8, v9, v10, v11, v12, v13, v14, v15, v16, v17, v18,
    y0, y1, y2, y3, y4, y5, y6, y7, y8, y9, y10, y11, y12, y13, y14, y15, y16, y17, y18,
    m0, m1, m2, m3, m4, m5, m6, m7, m8, m9, m10, m11, m12, m13, m14, m15, m16, m17, m18,
    store_0_noise s hsqrt, store_1_noise s hsqrt, store_2_noise s hsqrt, store_3_noise s hsqrt, store_4_noise s hsqrt, store_5_noise s hsqrt, store_6_noise s hsqrt, store_7_noise s hsqrt, store_8_noise s hsqrt, store_9_noise s hsqrt, store_10_noise s hsqrt, store_11_noise s hsqrt, store_12_noise s hsqrt, store_13_noise s hsqrt, store_14_noise s hsqrt, store_15_noise s hsqrt, store_16_noise s hsqrt, store_17_noise s hsqrt, store_18_noise s hsqrt]
  push_cast
  ring

theorem noise_moment_2 [CharZero K] (s : Site K) (hsqrt : s.sqrt 0 = 0) :
    ∑ q, (noiseMoment 2 q : K) * values s q
      = ∑ q, (noiseMoment 2 q : K) * values (quiet s) q
        + (random_1_0 s - 1 / 2) * 2 * noiseAmplitude s (∑ q, s._data_pdfs s.ctr_0 s.ctr_1 s.ctr_2 q) s.omega_shear := by
  obtain ⟨v0, v1, v2, v3, v4, v5, v6, v7, v8, v9, v10, v11, v12, v13, v14, v15, v16, v17, v18⟩ := values_apply s
  obtain ⟨y0, y1, y2, y3, y4, y5, y6, y7, y8, y9, y10, y11, y12, y13, y14, y15, y16, y17, y18⟩ := values_apply (quiet s)
  obtain ⟨m0, m1, m2, m3, m4, m5, m6, m7, m8, m9, m10, m11, m12, m13, m14, m15, m16, m17, m18⟩ := noiseMoment_row_2
  rw [sum19, sum19, v0, v1, v2, v3, v4, v5, v6, v7, v8, v9, v10, v11, v12, v13, v14, v15, v16, v17, v18,
    y0, y1, y2, y3, y4, y5, y6, y7, y8, y9, y10, y11, y12, y13, y14, y15, y16, y17, y18,
    m0, m1, m2, m3, m4, m5, m6, m7, m8, m9, m10, m11, m12, m13, m14, m15, m16, m17, m18,
    store_0_noise s hsqrt, store_1_noise s hsqrt, store_2_noise s hsqrt, store_3_noise s hsqrt, store_4_noise s hsqrt, store_5_noise s hsqrt, store_6_noise s hsqrt, store_7_noise s hsqrt, store_8_noise s hsqrt, store_9_noise s hsqrt, store_10_noise s hsqrt, store_11_noise s hsqrt, store_12_noise s hsqrt, store_13_noise s hsqrt, store_14_noise s hsqrt, store_15_noise s hsqrt, store_16_noise s hsqrt, store_17_noise s hsqrt, store_18_noise s hsqrt]
  push_cast
  ring

theorem noise_moment_3 [CharZero K] (s : Site K) (hsqrt : s.sqrt 0 = 0) :
    ∑ q, (noiseMoment 3 q : K) * values s q
      = ∑ q, (noiseMoment 3 q : K) * values (quiet s) q
        + (random_1_1 s - 1 / 2) * 2 * noiseAmplitude s (∑ q, s._data_pdfs s.ctr_0 s.ctr_1 s.ctr_2 q) s.omega_shear := by
  obtain ⟨v0, v1, v2, v3, v4, v5, v6, v7, v8, v9, v10, v11, v12, v13, v14, v15, v16, v17, v18⟩ := values_apply s
  obtain ⟨y0, y1, y2, y3, y4, y5, y6, y7, y8, y9, y10, y11, y12, y13, y14, y15, y16, y17, y18⟩ := values_apply (quiet s)
  obtain ⟨m0, m1, m2, m3, m4, m5, m6, m7, m8, m9, m10, m11, m12, m13, m14, m15, m16, m17, m18⟩ := noiseMoment_row_3
  rw [sum19, sum19, v0, v1, v2, v3, v4, v5, v6, v7, v8, v9, v10, v11, v12, v13, v14, v15, v16, v17, v18,
    y0, y1, y2, y3, y4, y5, y6, y7, y8, y9, y10, y11, y12, y13, y14, y15, y16, y17, y18,
    m0, m1, m2, m3, m4, m5, m6, m7, m8, m9, m10, m11, m12, m13, m14, m15, m16, m17, m18,
    store_0_noise s hsqrt, store_1_noise s hsqrt, store_2_noise s hsqrt, store_3_noise s hsqrt, store_4_noise s hsqrt, store_5_noise s hsqrt, store_6_noise s hsqrt, store_7_noise s hsqrt, store_8_noise s hsqrt, store_9_noise s hsqrt, store_10_noise s hsqrt, store_11_noise s hsqrt, store_12_noise s hsqrt, store_13_noise s hsqrt, store_14_noise s hsqrt, store_15_noise s hsqrt, store_16_noise s hsqrt, store_17_noise s hsqrt, store_18_noise s hsqrt]
  push_cast
  ring

theorem noise_moment_4 [CharZero K] (s : Site K) (hsqrt : s.sqrt 0 = 0) :
    ∑ q, (noiseMoment 4 q : K) * values s q
      = ∑ q, (noiseMoment 4 q : K) * values (quiet s) q
        + (random_2_0 s - 1 / 2) * 2 * noiseAmplitude s (∑ q, s._data_pdfs s.ctr_0 s.ctr_1 s.ctr_2 q) s.omega_shear := by
  obtain ⟨v0, v1, v2, v3, v4, v5, v6, v7, v8, v9, v10, v11, v12, v13, v14, v15, v16, v17, v18⟩ := values_apply s
  obtain ⟨y0, y1, y2, y3, y4, y5, y6, y7, y8, y9, y10, y11, y12, y13, y14, y15, y16, y17, y18⟩ := values_apply (quiet s)
  obtain ⟨m0, m1, m2, m3, m4, m5, m6, m7, m8, m9, m10, m11, m12, m13, m14, m15, m16, m17, m18⟩ := noiseMoment_row_4
  rw [sum19, sum19, v0, v1, v2, v3, v4, v5, v6, v7, v8, v9, v10, v11, v12, v13, v14, v15, v16, v17, v18,
    y0, y1, y2, y3, y4, y5, y6, y7, y8, y9, y10, y11, y12, y13, y14, y15, y16, y17, y18,
    m0, m1, m2, m3, m4, m5, m6, m7, m8, m9, m10, m11, m12, m13, m14, m15, m16, m17, m18,
    store_0_noise s hsqrt, store_1_noise s hsqrt, store_2_noise s hsqrt, store_3_noise s hsqrt, store_4_noise s hsqrt, store_5_noise s hsqrt, store_6_noise s hsqrt, store_7_noise s hsqrt, store_8_noise s hsqrt, store_9_noise s hsqrt, store_10_noise s hsqrt, store_11_noise s hsqrt, store_12_noise s hsqrt, store_13_noise s hsqrt, store_14_noise s hsqrt, store_15_noise s hsqrt, store_16_noise s hsqrt, store_17_noise s hsqrt, store_18_noise s hsqrt]
  push_cast
  ring

theorem noise_moment_5 [CharZero K] (s : Site K) (hsqrt : s.sqrt 0 = 0) :
    ∑ q, (noiseMoment 5 q : K) * values s q
      = ∑ q, (noiseMoment 5 q : K) * values (quiet s) q
        + (random_2_1 s - 1 / 2) * (24494897427831779 / 5000000000000000) * noiseAmplitude s (∑ q, s._data_pdfs s.ctr_0 s.ctr_1 s.ctr_2 q) s.omega_bulk := by
  obtain ⟨v0, v1, v2, v3, v4, v5, v6, v7, v8, v9, v10, v11, v12, v13, v14, v15, v16, v17, v18⟩ := values_apply s
  obtain ⟨y0, y1, y2, y3, y4, y5, y6, y7, y8, y9, y10, y11, y12, y13, y14, y15, y16, y17, y18⟩ := values_apply (quiet s)
  obtain ⟨m0, m1, m2, m3, m4, m5, m6, m7, m8, m9, m10, m11, m12, m13, m14, m15, m16, m17, m18⟩ := noiseMoment_row_5
  rw [sum19, sum19, v0, v1, v2, v3, v4, v5, v6, v7, v8, v9, v10, v11, v12, v13, v14, v15, v16, v17, v18,
    y0, y1, y2, y3, y4, y5, y6, y7, y8, y9, y10, y11, y12, y13, y14, y15, y16, y17, y18,
    m0, m1, m2, m3, m4, m5, m6, m7, m8, m9, m10, m11, m12, m13, m14, m15, m16, m17, m18,
    store_0_noise s hsqrt, store_1_noise s hsqrt, store_2_noise s hsqrt, store_3_noise s hsqrt, store_4_noise s hsqrt, store_5_noise s hsqrt, store_6_noise s hsqrt, store_7_noise s hsqrt, store_8_noise s hsqrt, store_9_noise s hsqrt, store_10_noise s hsqrt, store_11_noise s hsqrt, store_12_noise s hsqrt, store_13_noise s hsqrt, store_14_noise s hsqrt, store_15_noise s hsqrt, store_16_noise s hsqrt, store_17_noise s hsqrt, store_18_noise s hsqrt]
  push_cast
  ring

theorem noise_moment_6 [CharZero K] (s : Site K) (hsqrt : s.sqrt 0 = 0) :
    ∑ q, (noiseMoment 6 q : K) * values s q
      = ∑ q, (noiseMoment 6 q : K) * values (quiet s) q
        + (random_3_0 s - 1 / 2) * (24494897427831779 / 5000000000000000) * noiseAmplitude s (∑ q, s._data_pdfs s.ctr_0 s.ctr_1 s.ctr_2 q) s.omega_odd := by
  obtain ⟨v0, v1, v2, v3, v4, v5, v6, v7, v8, v9, v10, v11, v12, v13, v14, v15, v16, v17, v18⟩ := values_apply s
  obtain ⟨y0, y1, y2, y3, y4, y5, y6, y7, y8, y9, y10, y11, y12, y13, y14, y15, y16, y17, y18⟩ := values_apply (quiet s)
  obtain ⟨m0, m1, m2, m3, m4, m5, m6, m7, m8, m9, m10, m11, m12, m13, m14, m15, m16, m17, m18⟩ := noiseMoment_row_6
  rw [sum19, sum19, v0, v1, v2, v3, v4, v5, v6, v7, v8, v9, v10, v11, v12, v13, v14, v15, v16, v17, v18,
    y0, y1, y2, y3, y4, y5, y6, y7, y8, y9, y10, y11, y12, y13, y14, y15, y16, y17, y18,
    m0, m1, m2, m3, m4, m5, m6, m7, m8, m9, m10, m11, m12, m13, m14, m15, m16, m17, m18,
    store_0_noise s hsqrt, store_1_noise s hsqrt, store_2_noise s hsqrt, store_3_noise s hsqrt, store_4_noise s hsqrt, store_5_noise s hsqrt, store_6_noise s hsqrt, store_7_noise s hsqrt, store_8_noise s hsqrt, store_9_noise s hsqrt, store_10_noise s hsqrt, store_11_noise s hsqrt, store_12_noise s hsqrt, store_13_noise s hsqrt, store_14_noise s hsqrt, store_15_noise s hsqrt, store_16_noise s hsqrt, store_17_noise s hsqrt, store_18_noise s hsqrt]
  push_cast
  ring

theorem noise_moment_7 [CharZero K] (s : Site K) (hsqrt : s.sqrt 0 = 0) :
    ∑ q, (noiseMoment 7 q : K) * values s q
      = ∑ q, (noiseMoment 7 q : K) * values (quiet s) q
        + (random_3_1 s - 1 / 2) * (24494897427831779 / 5000000000000000) * noiseAmplitude s (∑ q, s._data_pdfs s.ctr_0 s.ctr_1 s.ctr_2 q) s.omega_odd := by
  obtain ⟨v0, v1, v2, v3, v4, v5, v6, v7, v8, v9, v10, v11, v12, v13, v14, v15, v16, v17, v18⟩ := values_apply s
  obtain ⟨y0, y1, y2, y3, y4, y5, y6, y7, y8, y9, y10, y11, y12, y13, y14, y15, y16, y17, y18⟩ := values_apply (quiet s)
  obtain ⟨m0, m1, m2, m3, m4, m5, m6, m7, m8, m9, m10, m11, m12, m13, m14, m15, m16, m17, m18⟩ := noiseMoment_row_7
  rw [sum19, sum19, v0, v1, v2, v3, v4, v5, v6, v7, v8, v9, v10, v11, v12, v13, v14, v15, v16, v17, v18,
    y0, y1, y2, y3, y4, y5, y6, y7, y8, y9, y10, y11, y12, y13, y14, y15, y16, y17, y18,
    m0, m1, m2, m3, m4, m5, m6, m7, m8, m9, m10, m11, m12, m13, m14, m15, m16, m17, m18,
    store_0_noise s hsqrt, store_1_noise s hsqrt, store_2_noise s hsqrt, store_3_noise s hsqrt, store_4_noise s hsqrt, store_5_noise s hsqrt, store_6_noise s hsqrt, store_7_noise s hsqrt, store_8_noise s hsqrt, store_9_noise s hsqrt, store_10_noise s hsqrt, store_11_noise s hsqrt, store_12_noise s hsqrt, store_13_noise s hsqrt, store_14_noise s hsqrt, store_15_noise s hsqrt, store_16_noise s hsqrt, store_17_noise s hsqrt, store_18_noise s hsqrt]
  push_cast
  ring

theorem noise_moment_8 [CharZero K] (s : Site K) (hsqrt : s.sqrt 0 = 0) :
    ∑ q, (noiseMoment 8 q : K) * values s q
      = ∑ q, (noiseMoment 8 q : K) * values (quiet s) q
        + (random_4_0 s - 1 / 2) * (24494897427831779 / 5000000000000000) * noiseAmplitude s (∑ q, s._data_pdfs s.ctr_0 s.ctr_1 s.ctr_2 q) s.omega_odd := by
  obtain ⟨v0, v1, v2, v3, v4, v5, v6, v7, v8, v9, v10, v11, v12, v13, v14, v15, v16, v17, v18⟩ := values_apply s
  obtain ⟨y0, y1, y2, y3, y4, y5, y6, y7, y8, y9, y10, y11, y12, y13, y14, y15, y16, y17, y18⟩ := values_apply (quiet s)
  obtain ⟨m0, m1, m2, m3, m4, m5, m6, m7, m8, m9, m10, m11, m12, m13, m14, m15, m16, m17, m18⟩ := noiseMoment_row_8
  rw [sum19, sum19, v0, v1, v2, v3, v4, v5, v6, v7, v8, v9, v10, v11, v12, v13, v14, v15, v16, v17, v18,
    y0, y1, y2, y3, y4, y5, y6, y7, y8, y9, y10, y11, y12, y13, y14, y15, y16, y17, y18,
    m0, m1, m2, m3, m4, m5, m6, m7, m8, m9, m10, m11, m12, m13, m14, m15, m16, m17, m18,
    store_0_noise s hsqrt, store_1_noise s hsqrt, store_2_noise s hsqrt, store_3_noise s hsqrt, store_4_noise s hsqrt, store_5_noise s hsqrt, store_6_noise s hsqrt, store_7_noise s hsqrt, store_8_noise s hsqrt, store_9_noise s hsqrt, store_10_noise s hsqrt, store_11_noise s hsqrt, store_12_noise s hsqrt, store_13_noise s hsqrt, store_14_noise s hsqrt, store_15_noise s hsqrt, store_16_noise s hsqrt, store_17_noise s hsqrt, store_18_noise s hsqrt]
  push_cast
  ring

theorem noise_moment_9 [CharZero K] (s : Site K) (hsqrt : s.sqrt 0 = 0) :
    ∑ q, (noiseMoment 9 q : K) * values s q
      = ∑ q, (noiseMoment 9 q : K) * values (quiet s) q
        + (random_4_1 s - 1 / 2) * (14142135623730951 / 5000000000000000) * noiseAmplitude s (∑ q, s._data_pdfs s.ctr_0 s.ctr_1 s.ctr_2 q) s.omega_odd := by
  obtain ⟨v0, v1, v2, v3, v4, v5, v6, v7, v8, v9, v10, v11, v12, v13, v14, v15, v16, v17, v18⟩ := values_apply s
  obtain ⟨y0, y1, y2, y3, y4, y5, y6, y7, y8, y9, y10, y11, y12, y13, y14, y15, y16, y17, y18⟩ := values_apply (quiet s)
  obtain ⟨m0, m1, m2, m3, m4, m5, m6, m7, m8, m9, m10, m11, m12, m13, m14, m15, m16, m17, m18⟩ := noiseMoment_row_9
  rw [sum19, sum19, v0, v1, v2, v3, v4, v5, v6, v7, v8, v9, v10, v11, v12, v13, v14, v15, v16, v17, v18,
    y0, y1, y2, y3, y4, y5, y6, y7, y8, y9, y10, y11, y12, y13, y14, y15, y16, y17, y18,
    m0, m1, m2, m3, m4, m5, m6, m7, m8, m9, m10, m11, m12, m13, m14, m15, m16, m17, m18,
    store_0_noise s hsqrt, store_1_noise s hsqrt, store_2_noise s hsqrt, store_3_noise s hsqrt, store_4_noise s hsqrt, store_5_noise s hsqrt, store_6_noise s hsqrt, store_7_noise s hsqrt, store_8_noise s hsqrt, store_9_noise s hsqrt, store_10_noise s hsqrt, store_11_noise s hsqrt, store_12_noise s hsqrt, store_13_noise s hsqrt, store_14_noise s hsqrt, store_15_noise s hsqrt, store_16_noise s hsqrt, store_17_noise s hsqrt, store_18_noise s hsqrt]
  push_cast
  ring

theorem noise_moment_10 [CharZero K] (s : Site K) (hsqrt : s.sqrt 0 = 0) :
    ∑ q, (noiseMoment 10 q : K) * values s q
      = ∑ q, (noiseMoment 10 q : K) * values (quiet s) q
        + (random_5_0 s - 1 / 2) * (14142135623730951 / 5000000000000000) * noiseAmplitude s (∑ q, s._data_pdfs s.ctr_0 s.ctr_1 s.ctr_2 q) s.omega_odd := by
  obtain ⟨v0, v1, v2, v3, v4, v5, v6, v7, v8, v9, v10, v11, v12, v13, v14, v15, v16, v17, v18⟩ := values_apply s
  obtain ⟨y0, y1, y2, y3, y4, y5, y6, y7, y8, y9, y10, y11, y12, y13, y14, y15, y16, y17, y18⟩ := values_apply (quiet s)
  obtain ⟨m0, m1, m2, m3, m4, m5, m6, m7, m8, m9, m10, m11, m12, m13, m14, m15, m16, m17, m18⟩ := noiseMoment_row_10
  rw [sum19, sum19, v0, v1, v2, v3, v4, v5, v6, v7, v8, v9, v10, v11, v12, v13, v14, v15, v16, v17, v18,
    y0, y1, y2, y3, y4, y5, y6, y7, y8, y9, y10, y11, y12, y13, y14, y15, y16, y17, y18,
    m0, m1, m2, m3, m4, m5, m6, m7, m8, m9, m10, m11, m12, m13, m14, m15, m16, m17, m18,
    store_0_noise s hsqrt, store_1_noise s hsqrt, store_2_noise s hsqrt, store_3_noise s hsqrt, store_4_noise s hsqrt, store_5_noise s hsqrt, store_6_noise s hsqrt, store_7_noise s hsqrt, store_8_noise s hsqrt, store_9_noise s hsqrt, store_10_noise s hsqrt, store_11_noise s hsqrt, store_12_noise s hsqrt, store_13_noise s hsqrt, store_14_noise s hsqrt, store_15_noise s hsqrt, store_16_noise s hsqrt, store_17_noise s hsqrt, store_18_noise s hsqrt]
  push_cast
  ring

theorem noise_moment_11 [CharZero K] (s : Site K) (hsqrt : s.sqrt 0 = 0) :
    ∑ q, (noiseMoment 11 q : K) * values s q
      = ∑ q, (noiseMoment 11 q : K) * values (quiet s) q
        + (random_5_1 s - 1 / 2) * (14142135623730951 / 5000000000000000) * noiseAmplitude s (∑ q, s._data_pdfs s.ctr_0 s.ctr_1 s.ctr_2 q) s.omega_odd := by
  obtain ⟨v0, v1, v2, v3, v4, v5, v6, v7, v8, v9, v10, v11, v12, v13, v14, v15, v16, v17, v18⟩ := values_apply s
  obtain ⟨y0, y1, y2, y3, y4, y5, y6, y7, y8, y9, y10, y11, y12, y13, y14, y15, y16, y17, y18⟩ := values_apply (quiet s)
  obtain ⟨m0, m1, m2, m3, m4, m5, m6, m7, m8, m9, m10, m11, m12, m13, m14, m15, m16, m17, m18⟩ := noiseMoment_row_11
  rw [sum19, sum19, v0, v1, v2, v3, v4, v5, v6, v7, v8, v9, v10, v11, v12, v13, v14, v15, v16, v17, v18,
    y0, y1, y2, y3, y4, y5, y6, y7, y8, y9, y10, y11, y12, y13, y14, y15, y16, y17, y18,
    m0, m1, m2, m3, m4, m5, m6, m7, m8, m9, m10, m11, m12, m13, m14, m15, m16, m17, m18,
    store_0_noise s hsqrt, store_1_noise s hsqrt, store_2_noise s hsqrt, store_3_noise s hsqrt, store_4_noise s hsqrt, store_5_noise s hsqrt, store_6_noise s hsqrt, store_7_noise s hsqrt, store_8_noise s hsqrt, store_9_noise s hsqrt, store_10_noise s hsqrt, store_11_noise s hsqrt, store_12_noise s hsqrt, store_13_noise s hsqrt, store_14_noise s hsqrt, store_15_noise s hsqrt, store_16_noise s hsqrt, store_17_noise s hsqrt, store_18_noise s hsqrt]
  push_cast
  ring

theorem noise_moment_12 [CharZero K] (s : Site K) (hsqrt : s.sqrt 0 = 0) :
    ∑ q, (noiseMoment 12 q : K) * values s q
      = ∑ q, (noiseMoment 12 q : K) * values (quiet s) q
        + (random_6_0 s - 1 / 2) * (112249721603218239 / 5000000000000000) * noiseAmplitude s (∑ q, s._data_pdfs s.ctr_0 s.ctr_1 s.ctr_2 q) s.omega_even := by
  obtain ⟨v0, v1, v2, v3, v4, v5, v6, v7, v8, v9, v10, v11, v12, v13, v14, v15, v16, v17, v18⟩ := values_apply s
  obtain ⟨y0, y1, y2, y3, y4, y5, y6, y7, y8, y9, y10, y11, y12, y13, y14, y15, y16, y17, y18⟩ := values_apply (quiet s)
  obtain ⟨m0, m1, m2, m3, m4, m5, m6, m7, m8, m9, m10, m11, m12, m13, m14, m15, m16, m17, m18⟩ := noiseMoment_row_12
  rw [sum19, sum19, v0, v1, v2, v3, v4, v5, v6, v7, v8, v9, v10, v11, v12, v13, v14, v15, v16, v17, v18,
    y0, y1, y2, y3, y4, y5, y6, y7, y8, y9, y10, y11, y12, y13, y14, y15, y16, y17, y18,
    m0, m1, m2, m3, m4, m5, m6, m7, m8, m9, m10, m11, m12, m13, m14, m15, m16, m17, m18,
    store_0_noise s hsqrt, store_1_noise s hsqrt, store_2_noise s hsqrt, store_3_noise s hsqrt, store_4_noise s hsqrt, store_5_noise s hsqrt, store_6_noise s hsqrt, store_7_noise s hsqrt, store_8_noise s hsqrt, store_9_noise s hsqrt, store_10_noise s hsqrt, store_11_noise s hsqrt, store_12_noise s hsqrt, store_13_noise s hsqrt, store_14_noise s hsqrt, store_15_noise s hsqrt, store_16_noise s hsqrt, store_17_noise s hsqrt, store_18_noise s hsqrt]
  push_cast
  ring

theorem noise_moment_13 [CharZero K] (s : Site K) (hsqrt : s.sqrt 0 = 0) :
    ∑ q, (noiseMoment 13 q : K) * values s q
      = ∑ q, (noiseMoment 13 q : K) * values (quiet s) q
        + (random_6_1 s - 1 / 2) * (20916500663351889 / 1250000000000000) * noiseAmplitude s (∑ q, s._data_pdfs s.ctr_0 s.ctr_1 s.ctr_2 q) s.omega_even := by
  obtain ⟨v0, v1, v2, v3, v4, v5, v6, v7, v8, v9, v10, v11, v12, v13, v14, v15, v16, v17, v18⟩ := values_apply s
  obtain ⟨y0, y1, y2, y3, y4, y5, y6, y7, y8, y9, y10, y11, y12, y13, y14, y15, y16, y17, y18⟩ := values_apply (quiet s)
  obtain ⟨m0, m1, m2, m3, m4, m5, m6, m7, m8, m9, m10, m11, m12, m13, m14, m15, m16, m17, m18⟩ := noiseMoment_row_13
  rw [sum19, sum19, v0, v1, v2, v3, v4, v5, v6, v7, v8, v9, v10, v11, v12, v13, v14, v15, v16, v17, v18,
    y0, y1, y2, y3, y4, y5, y6, y7, y8, y9, y10, y11, y12, y13, y14, y15, y16, y17, y18,
    m0, m1, m2, m3, m4, m5, m6, m7, m8, m9, m10, m11, m12, m13, m14, m15, m16, m17, m18,
    store_0_noise s hsqrt, store_1_noise s hsqrt, store_2_noise s hsqrt, store_3_noise s hsqrt, store_4_noise s hsqrt, store_5_noise s hsqrt, store_6_noise s hsqrt, store_7_noise s hsqrt, store_8_noise s hsqrt, store_9_noise s hsqrt, store_10_noise s hsqrt, store_11_noise s hsqrt, store_12_noise s hsqrt, store_13_noise s hsqrt, store_14_noise s hsqrt, store_15_noise s hsqrt, store_16_noise s hsqrt, store_17_noise s hsqrt, store_18_noise s hsqrt]
  push_cast
  ring

theorem noise_moment_14 [CharZero K] (s : Site K) (hsqrt : s.sqrt 0 = 0) :
    ∑ q, (noiseMoment 14 q : K) * values s q
      = ∑ q, (noiseMoment 14 q : K) * values (quiet s) q
        + (random_7_0 s - 1 / 2) * (13693063937629153 / 1250000000000000) * noiseAmplitude s (∑ q, s._data_pdfs s.ctr_0 s.ctr_1 s.ctr_2 q) s.omega_even := by
  obtain ⟨v0, v1, v2, v3, v4, v5, v6, v7, v8, v9, v10, v11, v12, v13, v14, v15, v16, v17, v18⟩ := values_apply s
  obtain ⟨y0, y1, y2, y3, y4, y5, y6, y7, y8, y9, y10, y11, y12, y13, y14, y15, y16, y17, y18⟩ := values_apply (quiet s)
  obtain ⟨m0, m1, m2, m3, m4, m5, m6, m7, m8, m9, m10, m11, m12, m13, m14, m15, m16, m17, m18⟩ := noiseMoment_row_14
  rw [sum19, sum19, v0, v1, v2, v3, v4, v5, v6, v7, v8, v9, v10, v11, v12, v13, v14, v15, v16, v17, v18,
    y0, y1, y2, y3, y4, y5, y6, y7, y8, y9, y10, y11, y12, y13, y14, y15, y16, y17, y18,
    m0, m1, m2, m3, m4, m5, m6, m7, m8, m9, m10, m11, m12, m13, m14, m15, m16, m17, m18,
    store_0_noise s hsqrt, store_1_noise s hsqrt, store_2_noise s hsqrt, store_3_noise s hsqrt, store_4_noise s hsqrt, store_5_noise s hsqrt, store_6_noise s hsqrt, store_7_noise s hsqrt, store_8_noise s hsqrt, store_9_noise s hsqrt, store_10_noise s hsqrt, store_11_noise s hsqrt, store_12_noise s hsqrt, store_13_noise s hsqrt, store_14_noise s hsqrt, store_15_noise s hsqrt, store_16_noise s hsqrt, store_17_noise s hsqrt, store_18_noise s hsqrt]
  push_cast
  ring

end FluctuatingMRTLatticeModel.kernel_collide

/-! ## The noise of the collision, for every moment and for the fused kernel -/

namespace FluctuatingMRTLatticeModel

/-- The noise added by `kernel_collide` to each of the fifteen non-conserved moments. -/
theorem kernel_collide.noise_moment [CharZero K] (s : Site K) (hsqrt : s.sqrt 0 = 0)
    (j : Fin 15) :
    ∑ q, (noiseMoment j q : K) * kernel_collide.values s q
      = ∑ q, (noiseMoment j q : K) * kernel_collide.values (quiet s) q
        + (kernel_collide.noiseDraw s j - 1 / 2) * noiseConst j
          * noiseAmplitude s (∑ q, s._data_pdfs s.ctr_0 s.ctr_1 s.ctr_2 q) (noiseRate s j) := by
  revert j
  rw [forall_fin15]
  exact ⟨kernel_collide.noise_moment_0 s hsqrt, kernel_collide.noise_moment_1 s hsqrt,
    kernel_collide.noise_moment_2 s hsqrt, kernel_collide.noise_moment_3 s hsqrt,
    kernel_collide.noise_moment_4 s hsqrt, kernel_collide.noise_moment_5 s hsqrt,
    kernel_collide.noise_moment_6 s hsqrt, kernel_collide.noise_moment_7 s hsqrt,
    kernel_collide.noise_moment_8 s hsqrt, kernel_collide.noise_moment_9 s hsqrt,
    kernel_collide.noise_moment_10 s hsqrt, kernel_collide.noise_moment_11 s hsqrt,
    kernel_collide.noise_moment_12 s hsqrt, kernel_collide.noise_moment_13 s hsqrt,
    kernel_collide.noise_moment_14 s hsqrt⟩

/-- The draws of the fused kernel are those of the collision of the pulled populations. -/
theorem kernel_streamCollide.noiseDraw_pull (s : Site K) :
    kernel_streamCollide.noiseDraw s = kernel_collide.noiseDraw (pulled s) := by
  simp only [kernel_streamCollide.noiseDraw, kernel_collide.noiseDraw,
    kernel_streamCollide.random_0_0_pull s, kernel_streamCollide.random_0_1_pull s,
    kernel_streamCollide.random_1_0_pull s, kernel_streamCollide.random_1_1_pull s,
    kernel_streamCollide.random_2_0_pull s, kernel_streamCollide.random_2_1_pull s,
    kernel_streamCollide.random_3_0_pull s, kernel_streamCollide.random_3_1_pull s,
    kernel_streamCollide.random_4_0_pull s, kernel_streamCollide.random_4_1_pull s,
    kernel_streamCollide.random_5_0_pull s, kernel_streamCollide.random_5_1_pull s,
    kernel_streamCollide.random_6_0_pull s, kernel_streamCollide.random_6_1_pull s,
    kernel_streamCollide.random_7_0_pull s]

/-- The noise added by `kernel_streamCollide` to each of the fifteen non-conserved moments. -/
theorem kernel_streamCollide.noise_moment_fused [CharZero K] (s : Site K)
    (hsqrt : s.sqrt 0 = 0) (j : Fin 15) :
    ∑ q, (noiseMoment j q : K) * kernel_streamCollide.values s q
      = ∑ q, (noiseMoment j q : K) * kernel_streamCollide.values (quiet s) q
        + (kernel_streamCollide.noiseDraw s j - 1 / 2) * noiseConst j
          * noiseAmplitude s
              (∑ q, s._data_pdfs (s.ctr_0 - cx q) (s.ctr_1 - cy q) (s.ctr_2 - cz q) q)
              (noiseRate s j) := by
  rw [kernel_streamCollide.values_pull s, kernel_streamCollide.values_pull (quiet s),
    kernel_streamCollide.noiseDraw_pull s]
  have h := kernel_collide.noise_moment (pulled s) hsqrt j
  have e : (∑ q, (pulled s)._data_pdfs (pulled s).ctr_0 (pulled s).ctr_1 (pulled s).ctr_2 q)
      = ∑ q, s._data_pdfs (s.ctr_0 - cx q) (s.ctr_1 - cy q) (s.ctr_2 - cz q) q := by
    refine Finset.sum_congr rfl (fun q _ => ?_)
    show kernel_stream.values s._data_pdfs s.ctr_0 s.ctr_1 s.ctr_2 q = _
    rw [kernel_stream.values_eq]
  rw [e] at h
  exact h

/-- The density of the fused kernel is the sum of the nineteen populations it pulls. -/
theorem kernel_streamCollide.rho_eq_sum_fused [CharZero K] (s : Site K) :
    kernel_streamCollide.rho s
      = ∑ q, s._data_pdfs (s.ctr_0 - cx q) (s.ctr_1 - cy q) (s.ctr_2 - cz q) q := by
  rw [kernel_streamCollide.rho_pull s, kernel_collide.rho_eq_sum (pulled s)]
  refine Finset.sum_congr rfl (fun q _ => ?_)
  show kernel_stream.values s._data_pdfs s.ctr_0 s.ctr_1 s.ctr_2 q = _
  rw [kernel_stream.values_eq]

end FluctuatingMRTLatticeModel


/-! ## Density, velocity and stress moments of the collision -/

namespace FluctuatingMRTLatticeModel.kernel_collide

/-- The velocity component `u_0` of the collision is the x momentum of the populations read,
divided by the density. -/
theorem u_0_eq (s : Site K) :
    u_0 s = (∑ q, (cx q : K) * s._data_pdfs s.ctr_0 s.ctr_1 s.ctr_2 q) / rho s := by
  obtain ⟨c0, c1, c2, c3, c4, c5, c6, c7, c8, c9, c10, c11, c12, c13, c14, c15, c16, c17, c18⟩ := cx_apply
  rw [sum19, c0, c1, c2, c3, c4, c5, c6, c7, c8, c9, c10, c11, c12, c13, c14, c15, c16, c17, c18]
  simp only [Int.cast_zero, Int.cast_one, Int.cast_neg, zero_mul, one_mul, neg_mul, mul_zero, mul_one,
    mul_neg, neg_neg, add_zero, zero_add, neg_zero]
  simp only [
    xi_259, xi_262, xi_265, xi_266, xi_268, xi_269, xi_272, xi_274, xi_275, xi_276, xi_0, xi_1,
    xi_2, xi_12, xi_13, xi_14, xi_15, xi_16, xi_17, xi_18, xi_19, vel0Term, xi_11, u_0]
  ring

/-- The velocity component `u_1` of the collision is the y momentum of the populations read,
divided by the density. -/
theorem u_1_eq (s : Site K) :
    u_1 s = (∑ q, (cy q : K) * s._data_pdfs s.ctr_0 s.ctr_1 s.ctr_2 q) / rho s := by
  obtain ⟨c0, c1, c2, c3, c4, c5, c6, c7, c8, c9, c10, c11, c12, c13, c14, c15, c16, c17, c18⟩ := cy_apply
  rw [sum19, c0, c1, c2, c3, c4, c5, c6, c7, c8, c9, c10, c11, c12, c13, c14, c15, c16, c17, c18]
  simp only [Int.cast_zero, Int.cast_one, Int.cast_neg, zero_mul, one_mul, neg_mul, mul_zero, mul_one,
    mul_neg, neg_neg, add_zero, zero_add, neg_zero]
  simp only [
    xi_259, xi_260, xi_264, xi_265, xi_269, xi_270, xi_274, xi_278, xi_279, xi_280, xi_3, xi_4,
    xi_5, xi_17, xi_20, xi_21, xi_22, xi_23, xi_24, xi_25, vel1Term, xi_11, u_1]
  ring

/-- The velocity component `u_2` of the collision is the z momentum of the populations read,
divided by the density. -/
theorem u_2_eq (s : Site K) :
    u_2 s = (∑ q, (cz q : K) * s._data_pdfs s.ctr_0 s.ctr_1 s.ctr_2 q) / rho s := by
  obtain ⟨c0, c1, c2, c3, c4, c5, c6, c7, c8, c9, c10, c11, c12, c13, c14, c15, c16, c17, c18⟩ := cz_apply
  rw [sum19, c0, c1, c2, c3, c4, c5, c6, c7, c8, c9, c10, c11, c12, c13, c14, c15, c16, c17, c18]
  simp only [Int.cast_zero, Int.cast_one, Int.cast_neg, zero_mul, one_mul, neg_mul, mul_zero, mul_one,
    mul_neg, neg_neg, add_zero, zero_add, neg_zero]
  simp only [
    xi_261, xi_262, xi_264, xi_267, xi_270, xi_272, xi_275, xi_276, xi_279, xi_280, xi_6, xi_7,
    xi_12, xi_24, xi_26, xi_27, xi_28, xi_29, xi_30, vel2Term, xi_11, u_2]
  ring

/-- The values written depend only on the populations and the force read at the cell, on the
parameters and on fifteen of the sixteen draws: the second value of the call with mode index 7
is not among them. -/
theorem values_eq_of_draws (s s' : Site K)
    (h_sqrt : s.sqrt = s'.sqrt) (h_kT : s.kT = s'.kT) (h_bulk : s.omega_bulk = s'.omega_bulk)
    (h_even : s.omega_even = s'.omega_even) (h_odd : s.omega_odd = s'.omega_odd) (h_shear :
    s.omega_shear = s'.omega_shear)
    (h_pdfs : ∀ q, s._data_pdfs s.ctr_0 s.ctr_1 s.ctr_2 q = s'._data_pdfs s'.ctr_0 s'.ctr_1 s'.ctr_2 q)
    (h_force : ∀ a, s._data_force s.ctr_0 s.ctr_1 s.ctr_2 a
      = s'._data_force s'.ctr_0 s'.ctr_1 s'.ctr_2 a)
    (h_0_0 : random_0_0 s = random_0_0 s') (h_0_1 : random_0_1 s = random_0_1 s') (h_1_0 :
    random_1_0 s = random_1_0 s') (h_1_1 : random_1_1 s = random_1_1 s') (h_2_0 : random_2_0 s =
    random_2_0 s') (h_2_1 : random_2_1 s = random_2_1 s') (h_3_0 : random_3_0 s = random_3_0 s')
    (h_3_1 : random_3_1 s = random_3_1 s') (h_4_0 : random_4_0 s = random_4_0 s') (h_4_1 :
    random_4_1 s = random_4_1 s') (h_5_0 : random_5_0 s = random_5_0 s') (h_5_1 : random_5_1 s =
    random_5_1 s') (h_6_0 : random_6_0 s = random_6_0 s') (h_6_1 : random_6_1 s = random_6_1 s')
    (h_7_0 : random_7_0 s = random_7_0 s') :
    values s = values s' := by
  have r_xi_259 : xi_259 s = xi_259 s' := h_pdfs 8
  have r_xi_260 : xi_260 s = xi_260 s' := h_pdfs 1
  have r_xi_261 : xi_261 s = xi_261 s' := h_pdfs 5
  have r_xi_262 : xi_262 s = xi_262 s' := h_pdfs 18
  have r_xi_263 : xi_263 s = xi_263 s' := h_pdfs 0
  have r_xi_264 : xi_264 s = xi_264 s' := h_pdfs 11
  have r_xi_265 : xi_265 s = xi_265 s' := h_pdfs 10
  have r_xi_266 : xi_266 s = xi_266 s' := h_pdfs 4
  have r_xi_267 : xi_267 s = xi_267 s' := h_pdfs 6
  have r_xi_268 : xi_268 s = xi_268 s' := h_pdfs 3
  have r_xi_269 : xi_269 s = xi_269 s' := h_pdfs 7
  have r_xi_270 : xi_270 s = xi_270 s' := h_pdfs 15
  have r_xi_271 : xi_271 s = xi_271 s' := h_force 1
  have r_xi_272 : xi_272 s = xi_272 s' := h_pdfs 14
  have r_xi_273 : xi_273 s = xi_273 s' := h_force 2
  have r_xi_274 : xi_274 s = xi_274 s' := h_pdfs 9
  have r_xi_275 : xi_275 s = xi_275 s' := h_pdfs 13
  have r_xi_276 : xi_276 s = xi_276 s' := h_pdfs 17
  have r_xi_277 : xi_277 s = xi_277 s' := h_force 0
  have r_xi_278 : xi_278 s = xi_278 s' := h_pdfs 2
  have r_xi_279 : xi_279 s = xi_279 s' := h_pdfs 12
  have r_xi_280 : xi_280 s = xi_280 s' := h_pdfs 16
  simp only [values,
    xi_40, xi_51, xi_52, xi_53, xi_58, xi_63, xi_73, xi_78, xi_105, xi_129, xi_144, xi_207,
    xi_222, xi_224, rr_0, xi_133, xi_197, xi_0, xi_1, xi_2, xi_3, xi_4, xi_5, xi_6, xi_7, xi_8,
    xi_9, xi_10, xi_12, xi_13, xi_14, xi_15, xi_16, xi_17, xi_18, xi_19, xi_20, xi_21, xi_22,
    xi_23, xi_24, xi_25, xi_26, xi_27, xi_28, xi_29, xi_30, xi_31, xi_32, xi_33, xi_34, xi_35,
    xi_36, xi_37, xi_38, xi_39, xi_57, xi_65, xi_69, xi_72, xi_76, xi_80, xi_90, xi_108, xi_109,
    xi_110, xi_111, xi_112, xi_113, xi_116, xi_117, xi_118, xi_121, xi_122, xi_124, xi_125,
    xi_126, xi_127, xi_128, xi_130, xi_135, xi_140, xi_141, xi_142, xi_143, xi_145, xi_146,
    xi_151, xi_168, xi_169, xi_170, xi_172, xi_173, xi_174, xi_179, xi_180, xi_181, xi_184,
    xi_186, xi_187, xi_188, xi_195, xi_216, xi_218, xi_223, xi_225, xi_234, xi_235, xi_243,
    xi_249, xi_250, vel0Term, vel1Term, vel2Term, rho, xi_11, xi_101, xi_102, xi_103, xi_104,
    xi_106, xi_107, xi_136, xi_137, xi_138, xi_139, xi_147, xi_148, xi_149, xi_150, xi_152,
    xi_153, xi_154, xi_158, xi_160, xi_164, xi_171, xi_175, xi_176, xi_178, xi_185, xi_189,
    xi_190, xi_192, xi_193, xi_196, xi_206, xi_215, xi_219, xi_220, xi_226, xi_227, xi_228,
    xi_229, xi_231, xi_236, xi_237, xi_241, xi_244, xi_246, xi_251, xi_252, u_0, xi_41, xi_42,
    xi_48, xi_114, xi_165, xi_166, xi_167, xi_202, u_1, xi_43, xi_44, xi_49, xi_71, xi_74, xi_75,
    xi_119, xi_120, xi_131, xi_132, xi_134, xi_198, u_2, xi_45, xi_46, xi_47, xi_50, xi_54, xi_55,
    xi_56, xi_59, xi_60, xi_61, xi_62, xi_64, xi_66, xi_67, xi_68, xi_70, xi_77, xi_79, xi_81,
    xi_82, xi_83, xi_84, xi_85, xi_86, xi_87, xi_88, xi_89, xi_91, xi_92, xi_93, xi_94, xi_95,
    xi_96, xi_97, xi_98, xi_99, xi_100, xi_115, xi_123, xi_155, xi_156, xi_157, xi_159, xi_161,
    xi_162, xi_163, xi_177, xi_182, xi_183, xi_191, xi_194, xi_199, xi_200, xi_201, xi_203,
    xi_204, xi_205, xi_211, xi_212, xi_213, xi_214, xi_230, xi_232, xi_233, xi_238, xi_239,
    xi_242, xi_245, xi_253, xi_255, xi_256, xi_257, xi_258, p_1, xi_208, xi_209, xi_210, p_2,
    xi_247, xi_248, xi_254, p_5, xi_217, xi_221, xi_240, forceTerm_0, forceTerm_1, forceTerm_2,
    forceTerm_3, forceTerm_4, forceTerm_5, forceTerm_6, forceTerm_7, forceTerm_8, forceTerm_9,
    forceTerm_10, forceTerm_11, forceTerm_12, forceTerm_13, forceTerm_14, forceTerm_15,
    forceTerm_16, forceTerm_17, forceTerm_18, store_0, store_1, store_2, store_3, store_4,
    store_5, store_6, store_7, store_8, store_9, store_10, store_11, store_12, store_13, store_14,
    store_15, store_16, store_17, store_18,
    r_xi_259, r_xi_260, r_xi_261, r_xi_262, r_xi_263, r_xi_264, r_xi_265, r_xi_266, r_xi_267,
    r_xi_268, r_xi_269, r_xi_270, r_xi_271, r_xi_272, r_xi_273, r_xi_274, r_xi_275, r_xi_276,
    r_xi_277, r_xi_278, r_xi_279, r_xi_280,
    h_0_0, h_0_1, h_1_0, h_1_1, h_2_0, h_2_1, h_3_0, h_3_1, h_4_0, h_4_1, h_5_0, h_5_1, h_6_0, h_6_1, h_7_0,
    h_sqrt, h_kT, h_bulk, h_even, h_odd, h_shear]

theorem shear_atoms_xy [CharZero K] (s : Site K) (hkT : s.kT = 0) (hsqrt : s.sqrt 0 = 0) :
    ∑ q, (cx q : K) * (cy q : K) * values s q
      = -s._data_pdfs s.ctr_0 s.ctr_1 s.ctr_2 7 + s._data_pdfs s.ctr_0 s.ctr_1 s.ctr_2 8 +
        s._data_pdfs s.ctr_0 s.ctr_1 s.ctr_2 9 - s._data_pdfs s.ctr_0 s.ctr_1 s.ctr_2 10 + 4 *
        xi_208 s + 4 * xi_74 s := by
  obtain ⟨z_xi_101, z_xi_102, z_xi_103, z_xi_104, z_xi_106, z_xi_107, z_xi_136, z_xi_137, z_xi_138,
      z_xi_139, z_xi_147, z_xi_148, z_xi_149, z_xi_152, z_xi_153, z_xi_154, z_xi_160, z_xi_171,
      z_xi_175, z_xi_185, z_xi_189, z_xi_193, z_xi_196, z_xi_206, z_xi_215, z_xi_219, z_xi_220,
      z_xi_226, z_xi_227, z_xi_228, z_xi_229, z_xi_236, z_xi_237, z_xi_241, z_xi_244, z_xi_246,
      z_xi_251, z_xi_252⟩ :=
    noise_zero s hkT hsqrt
  obtain ⟨v0, v1, v2, v3, v4, v5, v6, v7, v8, v9, v10, v11, v12, v13, v14, v15, v16, v17, v18⟩ := values_apply s
  obtain ⟨a0, a1, a2, a3, a4, a5, a6, a7, a8, a9, a10, a11, a12, a13, a14, a15, a16, a17, a18⟩ := cx_apply
  obtain ⟨b0, b1, b2, b3, b4, b5, b6, b7, b8, b9, b10, b11, b12, b13, b14, b15, b16, b17, b18⟩ := cy_apply
  rw [sum19, v0, v1, v2, v3, v4, v5, v6, v7, v8, v9, v10, v11, v12, v13, v14, v15, v16, v17, v18,
    a0, a1, a2, a3, a4, a5, a6, a7, a8, a9, a10, a11, a12, a13, a14, a15, a16, a17, a18,
    b0, b1, b2, b3, b4, b5, b6, b7, b8, b9, b10, b11, b12, b13, b14, b15, b16, b17, b18]
  simp only [Int.cast_zero, Int.cast_one, Int.cast_neg, zero_mul, one_mul, neg_mul, mul_zero, mul_one,
    mul_neg, neg_neg, add_zero, zero_add, neg_zero]
  simp only [
    xi_51, xi_52, xi_58, xi_78, xi_105, xi_144, rr_0, xi_197, xi_76, xi_80, xi_145, xi_146,
    xi_151, xi_173, xi_174, xi_195, xi_103, xi_147, xi_148, xi_149, xi_150, xi_153, xi_160,
    xi_164, xi_175, xi_176, xi_178, xi_193, xi_196, xi_206, xi_202, xi_75, xi_198, xi_61, xi_66,
    xi_77, xi_79, xi_81, xi_82, xi_83, xi_84, xi_85, xi_86, xi_87, xi_194, xi_199, xi_200, xi_201,
    xi_203, xi_204, xi_205, xi_211, xi_212, xi_213, xi_214, xi_209, xi_210, forceTerm_7,
    forceTerm_8, forceTerm_9, forceTerm_10, store_7, store_8, store_9, store_10,
    xi_259, xi_265, xi_269, xi_271, xi_274, xi_277,
    z_xi_101, z_xi_102, z_xi_103, z_xi_104, z_xi_106, z_xi_107, z_xi_136, z_xi_137, z_xi_138,
    z_xi_139, z_xi_147, z_xi_148, z_xi_149, z_xi_152, z_xi_153, z_xi_154, z_xi_160, z_xi_171,
    z_xi_175, z_xi_185, z_xi_189, z_xi_193, z_xi_196, z_xi_206, z_xi_215, z_xi_219, z_xi_220,
    z_xi_226, z_xi_227, z_xi_228, z_xi_229, z_xi_236, z_xi_237, z_xi_241, z_xi_244, z_xi_246,
    z_xi_251, z_xi_252,
    zero_mul, mul_zero, neg_zero, add_zero, zero_add, sub_zero, sub_self]
  ring

/-- Without noise the xy stress written relaxes with `omega_shear` towards `rho u u` and
receives the velocity-force coupling. -/
theorem shear_moment_xy [CharZero K] (s : Site K) (hkT : s.kT = 0) (hsqrt : s.sqrt 0 = 0) :
    ∑ q, (cx q : K) * (cy q : K) * values s q
      = (1 - s.omega_shear) * ∑ q, (cx q : K) * (cy q : K) * s._data_pdfs s.ctr_0 s.ctr_1 s.ctr_2 q
        + s.omega_shear * rho s * u_0 s * u_1 s
        + (1 - s.omega_shear / 2) * (u_0 s * s._data_force s.ctr_0 s.ctr_1 s.ctr_2 1 + u_1 s * s._data_force s.ctr_0 s.ctr_1 s.ctr_2 0) := by
  obtain ⟨a0, a1, a2, a3, a4, a5, a6, a7, a8, a9, a10, a11, a12, a13, a14, a15, a16, a17, a18⟩ := cx_apply
  obtain ⟨b0, b1, b2, b3, b4, b5, b6, b7, b8, b9, b10, b11, b12, b13, b14, b15, b16, b17, b18⟩ := cy_apply
  rw [shear_atoms_xy s hkT hsqrt, sum19, a0, a1, a2, a3, a4, a5, a6, a7, a8, a9, a10, a11, a12, a13, a14, a15, a16, a17, a18,
    b0, b1, b2, b3, b4, b5, b6, b7, b8, b9, b10, b11, b12, b13, b14, b15, b16, b17, b18]
  simp only [Int.cast_zero, Int.cast_one, Int.cast_neg, zero_mul, one_mul, neg_mul, mul_zero, mul_one,
    mul_neg, neg_neg, add_zero, zero_add, neg_zero]
  simp only [
    xi_51, xi_52, xi_73, xi_207, xi_259, xi_265, xi_269, xi_271, xi_274, xi_277, xi_16, xi_20,
    xi_21, xi_33, xi_72, xi_71, xi_74, xi_131, p_1, xi_208]
  ring

theorem shear_atoms_xz [CharZero K] (s : Site K) (hkT : s.kT = 0) (hsqrt : s.sqrt 0 = 0) :
    ∑ q, (cx q : K) * (cz q : K) * values s q
      = -s._data_pdfs s.ctr_0 s.ctr_1 s.ctr_2 13 + s._data_pdfs s.ctr_0 s.ctr_1 s.ctr_2 14 +
        s._data_pdfs s.ctr_0 s.ctr_1 s.ctr_2 17 - s._data_pdfs s.ctr_0 s.ctr_1 s.ctr_2 18 + 4
        * xi_247 s + 4 * xi_94 s := by
  obtain ⟨z_xi_101, z_xi_102, z_xi_103, z_xi_104, z_xi_106, z_xi_107, z_xi_136, z_xi_137, z_xi_138,
      z_xi_139, z_xi_147, z_xi_148, z_xi_149, z_xi_152, z_xi_153, z_xi_154, z_xi_160, z_xi_171,
      z_xi_175, z_xi_185, z_xi_189, z_xi_193, z_xi_196, z_xi_206, z_xi_215, z_xi_219, z_xi_220,
      z_xi_226, z_xi_227, z_xi_228, z_xi_229, z_xi_236, z_xi_237, z_xi_241, z_xi_244, z_xi_246,
      z_xi_251, z_xi_252⟩ :=
    noise_zero s hkT hsqrt
  obtain ⟨v0, v1, v2, v3, v4, v5, v6, v7, v8, v9, v10, v11, v12, v13, v14, v15, v16, v17, v18⟩ := values_apply s
  obtain ⟨a0, a1, a2, a3, a4, a5, a6, a7, a8, a9, a10, a11, a12, a13, a14, a15, a16, a17, a18⟩ := cx_apply
  obtain ⟨b0, b1, b2, b3, b4, b5, b6, b7, b8, b9, b10, b11, b12, b13, b14, b15, b16, b17, b18⟩ := cz_apply
  rw [sum19, v0, v1, v2, v3, v4, v5, v6, v7, v8, v9, v10, v11, v12, v13, v14, v15, v16, v17, v18,
    a0, a1, a2, a3, a4, a5, a6, a7, a8, a9, a10, a11, a12, a13, a14, a15, a16, a17, a18,
    b0, b1, b2, b3, b4, b5, b6, b7, b8, b9, b10, b11, b12, b13, b14, b15, b16, b17, b18]
  simp only [Int.cast_zero, Int.cast_one, Int.cast_neg, zero_mul, one_mul, neg_mul, mul_zero, mul_one,
    mul_neg, neg_neg, add_zero, zero_add, neg_zero]
  simp only [
    xi_51, xi_52, xi_58, xi_78, xi_105, xi_144, xi_222, xi_224, rr_0, xi_197, xi_76, xi_90,
    xi_151, xi_170, xi_174, xi_187, xi_188, xi_243, xi_249, xi_250, xi_103, xi_107, xi_137,
    xi_147, xi_148, xi_153, xi_160, xi_189, xi_190, xi_192, xi_193, xi_226, xi_228, xi_231,
    xi_241, xi_244, xi_246, xi_251, xi_252, xi_202, xi_59, xi_61, xi_77, xi_81, xi_85, xi_91,
    xi_95, xi_96, xi_97, xi_98, xi_100, xi_194, xi_199, xi_203, xi_204, xi_211, xi_230, xi_232,
    xi_242, xi_245, xi_253, xi_255, xi_256, xi_258, xi_248, xi_254, forceTerm_13, forceTerm_14,
    forceTerm_17, forceTerm_18, store_13, store_14, store_17, store_18,
    xi_262, xi_272, xi_273, xi_275, xi_276, xi_277,
    z_xi_101, z_xi_102, z_xi_103, z_xi_104, z_xi_106, z_xi_107, z_xi_136, z_xi_137, z_xi_138,
    z_xi_139, z_xi_147, z_xi_148, z_xi_149, z_xi_152, z_xi_153, z_xi_154, z_xi_160, z_xi_171,
    z_xi_175, z_xi_185, z_xi_189, z_xi_193, z_xi_196, z_xi_206, z_xi_215, z_xi_219, z_xi_220,
    z_xi_226, z_xi_227, z_xi_228, z_xi_229, z_xi_236, z_xi_237, z_xi_241, z_xi_244, z_xi_246,
    z_xi_251, z_xi_252,
    zero_mul, mul_zero, neg_zero, add_zero, zero_add, sub_zero, sub_self]
  ring

/-- Without noise the xz stress written relaxes with `omega_shear` towards `rho u u` and
receives the velocity-force coupling. -/
theorem shear_moment_xz [CharZero K] (s : Site K) (hkT : s.kT = 0) (hsqrt : s.sqrt 0 = 0) :
    ∑ q, (cx q : K) * (cz q : K) * values s q
      = (1 - s.omega_shear) * ∑ q, (cx q : K) * (cz q : K) * s._data_pdfs s.ctr_0 s.ctr_1 s.ctr_2 q
        + s.omega_shear * rho s * u_0 s * u_2 s
        + (1 - s.omega_shear / 2) * (u_0 s * s._data_force s.ctr_0 s.ctr_1 s.ctr_2 2 + u_2 s * s._data_force s.ctr_0 s.ctr_1 s.ctr_2 0) := by
  obtain ⟨a0, a1, a2, a3, a4, a5, a6, a7, a8, a9, a10, a11, a12, a13, a14, a15, a16, a17, a18⟩ := cx_apply
  obtain ⟨b0, b1, b2, b3, b4, b5, b6, b7, b8, b9, b10, b11, b12, b13, b14, b15, b16, b17, b18⟩ := cz_apply
  rw [shear_atoms_xz s hkT hsqrt, sum19, a0, a1, a2, a3, a4, a5, a6, a7, a8, a9, a10, a11, a12, a13, a14, a15, a16, a17, a18,
    b0, b1, b2, b3, b4, b5, b6, b7, b8, b9, b10, b11, b12, b13, b14, b15, b16, b17, b18]
  simp only [Int.cast_zero, Int.cast_one, Int.cast_neg, zero_mul, one_mul, neg_mul, mul_zero, mul_one,
    mul_neg, neg_neg, add_zero, zero_add, neg_zero]
  simp only [
    xi_51, xi_52, xi_73, xi_207, xi_262, xi_272, xi_273, xi_275, xi_276, xi_277, xi_15, xi_26,
    xi_34, xi_35, xi_36, xi_165, xi_94, p_2, xi_247]
  ring

theorem shear_atoms_yz [CharZero K] (s : Site K) (hkT : s.kT = 0) (hsqrt : s.sqrt 0 = 0) :
    ∑ q, (cy q : K) * (cz q : K) * values s q
      = s._data_pdfs s.ctr_0 s.ctr_1 s.ctr_2 11 - s._data_pdfs s.ctr_0 s.ctr_1 s.ctr_2 12 -
        s._data_pdfs s.ctr_0 s.ctr_1 s.ctr_2 15 + s._data_pdfs s.ctr_0 s.ctr_1 s.ctr_2 16 + 4
        * xi_217 s + 4 * xi_88 s := by
  obtain ⟨z_xi_101, z_xi_102, z_xi_103, z_xi_104, z_xi_106, z_xi_107, z_xi_136, z_xi_137, z_xi_138,
      z_xi_139, z_xi_147, z_xi_148, z_xi_149, z_xi_152, z_xi_153, z_xi_154, z_xi_160, z_xi_171,
      z_xi_175, z_xi_185, z_xi_189, z_xi_193, z_xi_196, z_xi_206, z_xi_215, z_xi_219, z_xi_220,
      z_xi_226, z_xi_227, z_xi_228, z_xi_229, z_xi_236, z_xi_237, z_xi_241, z_xi_244, z_xi_246,
      z_xi_251, z_xi_252⟩ :=
    noise_zero s hkT hsqrt
  obtain ⟨v0, v1, v2, v3, v4, v5, v6, v7, v8, v9, v10, v11, v12, v13, v14, v15, v16, v17, v18⟩ := values_apply s
  obtain ⟨a0, a1, a2, a3, a4, a5, a6, a7, a8, a9, a10, a11, a12, a13, a14, a15, a16, a17, a18⟩ := cy_apply
  obtain ⟨b0, b1, b2, b3, b4, b5, b6, b7, b8, b9, b10, b11, b12, b13, b14, b15, b16, b17, b18⟩ := cz_apply
  rw [sum19, v0, v1, v2, v3, v4, v5, v6, v7, v8, v9, v10, v11, v12, v13, v14, v15, v16, v17, v18,
    a0, a1, a2, a3, a4, a5, a6, a7, a8, a9, a10, a11, a12, a13, a14, a15, a16, a17, a18,
    b0, b1, b2, b3, b4, b5, b6, b7, b8, b9, b10, b11, b12, b13, b14, b15, b16, b17, b18]
  simp only [Int.cast_zero, Int.cast_one, Int.cast_neg, zero_mul, one_mul, neg_mul, mul_zero, mul_one,
    mul_neg, neg_neg, add_zero, zero_add, neg_zero]
  simp only [
    xi_51, xi_52, xi_58, xi_78, xi_105, xi_222, xi_224, rr_0, xi_197, xi_80, xi_90, xi_135,
    xi_146, xi_184, xi_188, xi_216, xi_218, xi_223, xi_225, xi_234, xi_235, xi_103, xi_104,
    xi_107, xi_137, xi_147, xi_153, xi_160, xi_215, xi_219, xi_220, xi_226, xi_227, xi_228,
    xi_229, xi_231, xi_236, xi_237, xi_198, xi_59, xi_66, xi_81, xi_82, xi_83, xi_86, xi_89,
    xi_91, xi_92, xi_93, xi_98, xi_99, xi_161, xi_199, xi_200, xi_213, xi_230, xi_232, xi_233,
    xi_238, xi_239, xi_256, xi_257, xi_221, xi_240, forceTerm_11, forceTerm_12, forceTerm_15,
    forceTerm_16, store_11, store_12, store_15, store_16,
    xi_264, xi_270, xi_271, xi_273, xi_279, xi_280,
    z_xi_101, z_xi_102, z_xi_103, z_xi_104, z_xi_106, z_xi_107, z_xi_136, z_xi_137, z_xi_138,
    z_xi_139, z_xi_147, z_xi_148, z_xi_149, z_xi_152, z_xi_153, z_xi_154, z_xi_160, z_xi_171,
    z_xi_175, z_xi_185, z_xi_189, z_xi_193, z_xi_196, z_xi_206, z_xi_215, z_xi_219, z_xi_220,
    z_xi_226, z_xi_227, z_xi_228, z_xi_229, z_xi_236, z_xi_237, z_xi_241, z_xi_244, z_xi_246,
    z_xi_251, z_xi_252,
    zero_mul, mul_zero, neg_zero, add_zero, zero_add, sub_zero, sub_self]
  ring

/-- Without noise the yz stress written relaxes with `omega_shear` towards `rho u u` and
receives the velocity-force coupling. -/
theorem shear_moment_yz [CharZero K] (s : Site K) (hkT : s.kT = 0) (hsqrt : s.sqrt 0 = 0) :
    ∑ q, (cy q : K) * (cz q : K) * values s q
      = (1 - s.omega_shear) * ∑ q, (cy q : K) * (cz q : K) * s._data_pdfs s.ctr_0 s.ctr_1 s.ctr_2 q
        + s.omega_shear * rho s * u_1 s * u_2 s
        + (1 - s.omega_shear / 2) * (u_1 s * s._data_force s.ctr_0 s.ctr_1 s.ctr_2 2 + u_2 s * s._data_force s.ctr_0 s.ctr_1 s.ctr_2 1) := by
  obtain ⟨a0, a1, a2, a3, a4, a5, a6, a7, a8, a9, a10, a11, a12, a13, a14, a15, a16, a17, a18⟩ := cy_apply
  obtain ⟨b0, b1, b2, b3, b4, b5, b6, b7, b8, b9, b10, b11, b12, b13, b14, b15, b16, b17, b18⟩ := cz_apply
  rw [shear_atoms_yz s hkT hsqrt, sum19, a0, a1, a2, a3, a4, a5, a6, a7, a8, a9, a10, a11, a12, a13, a14, a15, a16, a17, a18,
    b0, b1, b2, b3, b4, b5, b6, b7, b8, b9, b10, b11, b12, b13, b14, b15, b16, b17, b18]
  simp only [Int.cast_zero, Int.cast_one, Int.cast_neg, zero_mul, one_mul, neg_mul, mul_zero, mul_one,
    mul_neg, neg_neg, add_zero, zero_add, neg_zero]
  simp only [
    xi_51, xi_52, xi_73, xi_207, xi_264, xi_270, xi_271, xi_273, xi_279, xi_280, xi_22, xi_28,
    xi_38, xi_39, xi_72, xi_71, xi_131, xi_88, p_5, xi_217]
  ring

theorem bulk_atoms [CharZero K] (s : Site K) (hkT : s.kT = 0) (hsqrt : s.sqrt 0 = 0) :
    ∑ q, ((cx q : K) ^ 2 + (cy q : K) ^ 2 + (cz q : K) ^ 2) * values s q
      = s._data_pdfs s.ctr_0 s.ctr_1 s.ctr_2 1 + s._data_pdfs s.ctr_0 s.ctr_1 s.ctr_2 2 + s._data_pdfs
        s.ctr_0 s.ctr_1 s.ctr_2 3 + s._data_pdfs s.ctr_0 s.ctr_1 s.ctr_2 4 + s._data_pdfs
        s.ctr_0 s.ctr_1 s.ctr_2 5 + s._data_pdfs s.ctr_0 s.ctr_1 s.ctr_2 6 + 2 * s._data_pdfs
        s.ctr_0 s.ctr_1 s.ctr_2 7 + 2 * s._data_pdfs s.ctr_0 s.ctr_1 s.ctr_2 8 + 2 *
        s._data_pdfs s.ctr_0 s.ctr_1 s.ctr_2 9 + 2 * s._data_pdfs s.ctr_0 s.ctr_1 s.ctr_2 10 +
        2 * s._data_pdfs s.ctr_0 s.ctr_1 s.ctr_2 11 + 2 * s._data_pdfs s.ctr_0 s.ctr_1 s.ctr_2
        12 + 2 * s._data_pdfs s.ctr_0 s.ctr_1 s.ctr_2 13 + 2 * s._data_pdfs s.ctr_0 s.ctr_1
        s.ctr_2 14 + 2 * s._data_pdfs s.ctr_0 s.ctr_1 s.ctr_2 15 + 2 * s._data_pdfs s.ctr_0
        s.ctr_1 s.ctr_2 16 + 2 * s._data_pdfs s.ctr_0 s.ctr_1 s.ctr_2 17 + 2 * s._data_pdfs
        s.ctr_0 s.ctr_1 s.ctr_2 18 - s.omega_shear * xi_50 s - s.omega_shear * xi_55 s -
        s.omega_shear * xi_56 s + xi_123 s + 3 * xi_47 s + 2 * xi_50 s + 2 * xi_55 s + 2 *
        xi_56 s := by
  obtain ⟨z_xi_101, z_xi_102, z_xi_103, z_xi_104, z_xi_106, z_xi_107, z_xi_136, z_xi_137, z_xi_138,
      z_xi_139, z_xi_147, z_xi_148, z_xi_149, z_xi_152, z_xi_153, z_xi_154, z_xi_160, z_xi_171,
      z_xi_175, z_xi_185, z_xi_189, z_xi_193, z_xi_196, z_xi_206, z_xi_215, z_xi_219, z_xi_220,
      z_xi_226, z_xi_227, z_xi_228, z_xi_229, z_xi_236, z_xi_237, z_xi_241, z_xi_244, z_xi_246,
      z_xi_251, z_xi_252⟩ :=
    noise_zero s hkT hsqrt
  obtain ⟨v0, v1, v2, v3, v4, v5, v6, v7, v8, v9, v10, v11, v12, v13, v14, v15, v16, v17, v18⟩ := values_apply s
  obtain ⟨a0, a1, a2, a3, a4, a5, a6, a7, a8, a9, a10, a11, a12, a13, a14, a15, a16, a17, a18⟩ := cx_apply
  obtain ⟨b0, b1, b2, b3, b4, b5, b6, b7, b8, b9, b10, b11, b12, b13, b14, b15, b16, b17, b18⟩ := cy_apply
  obtain ⟨c0, c1, c2, c3, c4, c5, c6, c7, c8, c9, c10, c11, c12, c13, c14, c15, c16, c17, c18⟩ := cz_apply
  rw [sum19, v0, v1, v2, v3, v4, v5, v6, v7, v8, v9, v10, v11, v12, v13, v14, v15, v16, v17, v18,
    a0, a1, a2, a3, a4, a5, a6, a7, a8, a9, a10, a11, a12, a13, a14, a15, a16, a17, a18,
    b0, b1, b2, b3, b4, b5, b6, b7, b8, b9, b10, b11, b12, b13, b14, b15, b16, b17, b18,
    c0, c1, c2, c3, c4, c5, c6, c7, c8, c9, c10, c11, c12, c13, c14, c15, c16, c17, c18]
  simp only [Int.cast_zero, Int.cast_one, Int.cast_neg, zero_mul, one_mul, neg_mul, mul_zero, mul_one,
    mul_neg, neg_neg, add_zero, zero_add, neg_zero]
  simp only [
    xi_51, xi_52, xi_58, xi_63, xi_78, xi_105, xi_129, xi_144, xi_222, xi_224, rr_0, xi_133,
    xi_197, xi_57, xi_65, xi_69, xi_76, xi_80, xi_90, xi_130, xi_135, xi_145, xi_146, xi_151,
    xi_169, xi_170, xi_173, xi_174, xi_181, xi_184, xi_187, xi_188, xi_195, xi_216, xi_218,
    xi_223, xi_225, xi_234, xi_235, xi_243, xi_249, xi_250, xi_103, xi_104, xi_107, xi_137,
    xi_138, xi_139, xi_147, xi_148, xi_149, xi_150, xi_153, xi_154, xi_158, xi_160, xi_164,
    xi_171, xi_175, xi_176, xi_178, xi_185, xi_189, xi_190, xi_192, xi_193, xi_196, xi_206,
    xi_215, xi_219, xi_220, xi_226, xi_227, xi_228, xi_229, xi_231, xi_236, xi_237, xi_241,
    xi_244, xi_246, xi_251, xi_252, xi_167, xi_202, xi_75, xi_134, xi_198, xi_59, xi_60, xi_61,
    xi_62, xi_64, xi_66, xi_67, xi_68, xi_70, xi_77, xi_79, xi_81, xi_82, xi_83, xi_84, xi_85,
    xi_86, xi_87, xi_89, xi_91, xi_92, xi_93, xi_95, xi_96, xi_97, xi_98, xi_99, xi_100, xi_157,
    xi_161, xi_162, xi_163, xi_177, xi_183, xi_191, xi_194, xi_199, xi_200, xi_201, xi_203,
    xi_204, xi_205, xi_211, xi_212, xi_213, xi_214, xi_230, xi_232, xi_233, xi_238, xi_239,
    xi_242, xi_245, xi_253, xi_255, xi_256, xi_257, xi_258, xi_209, xi_210, xi_248, xi_254,
    xi_221, xi_240, forceTerm_1, forceTerm_2, forceTerm_3, forceTerm_4, forceTerm_5, forceTerm_6,
    forceTerm_7, forceTerm_8, forceTerm_9, forceTerm_10, forceTerm_11, forceTerm_12, forceTerm_13,
    forceTerm_14, forceTerm_15, forceTerm_16, forceTerm_17, forceTerm_18, store_1, store_2,
    store_3, store_4, store_5, store_6, store_7, store_8, store_9, store_10, store_11, store_12,
    store_13, store_14, store_15, store_16, store_17, store_18,
    xi_259, xi_260, xi_261, xi_262, xi_264, xi_265, xi_266, xi_267, xi_268, xi_269, xi_270,
    xi_271, xi_272, xi_273, xi_274, xi_275, xi_276, xi_277, xi_278, xi_279, xi_280,
    z_xi_101, z_xi_102, z_xi_103, z_xi_104, z_xi_106, z_xi_107, z_xi_136, z_xi_137, z_xi_138,
    z_xi_139, z_xi_147, z_xi_148, z_xi_149, z_xi_152, z_xi_153, z_xi_154, z_xi_160, z_xi_171,
    z_xi_175, z_xi_185, z_xi_189, z_xi_193, z_xi_196, z_xi_206, z_xi_215, z_xi_219, z_xi_220,
    z_xi_226, z_xi_227, z_xi_228, z_xi_229, z_xi_236, z_xi_237, z_xi_241, z_xi_244, z_xi_246,
    z_xi_251, z_xi_252,
    zero_mul, mul_zero, neg_zero, add_zero, zero_add, sub_zero, sub_self]
  ring

/-- Without noise the trace of the stress written relaxes with `omega_bulk` towards
`rho (1 + u^2)` and receives the velocity-force coupling. -/
theorem bulk_moment [CharZero K] (s : Site K) (hkT : s.kT = 0) (hsqrt : s.sqrt 0 = 0) :
    ∑ q, ((cx q : K) ^ 2 + (cy q : K) ^ 2 + (cz q : K) ^ 2) * values s q
      = ∑ q, ((cx q : K) ^ 2 + (cy q : K) ^ 2 + (cz q : K) ^ 2) * s._data_pdfs s.ctr_0 s.ctr_1 s.ctr_2 q
        - s.omega_bulk * (∑ q, ((cx q : K) ^ 2 + (cy q : K) ^ 2 + (cz q : K) ^ 2) * s._data_pdfs s.ctr_0 s.ctr_1 s.ctr_2 q
            - rho s * (1 + (u_0 s ^ 2 + u_1 s ^ 2 + u_2 s ^ 2)))
        + (2 - s.omega_bulk) * (u_0 s * s._data_force s.ctr_0 s.ctr_1 s.ctr_2 0 + u_1 s * s._data_force s.ctr_0 s.ctr_1 s.ctr_2 1 + u_2 s * s._data_force s.ctr_0 s.ctr_1 s.ctr_2 2) := by
  obtain ⟨z_xi_101, z_xi_102, z_xi_103, z_xi_104, z_xi_106, z_xi_107, z_xi_136, z_xi_137, z_xi_138,
      z_xi_139, z_xi_147, z_xi_148, z_xi_149, z_xi_152, z_xi_153, z_xi_154, z_xi_160, z_xi_171,
      z_xi_175, z_xi_185, z_xi_189, z_xi_193, z_xi_196, z_xi_206, z_xi_215, z_xi_219, z_xi_220,
      z_xi_226, z_xi_227, z_xi_228, z_xi_229, z_xi_236, z_xi_237, z_xi_241, z_xi_244, z_xi_246,
      z_xi_251, z_xi_252⟩ :=
    noise_zero s hkT hsqrt
  have hr := rho_eq_sum s
  rw [sum19] at hr
  obtain ⟨a0, a1, a2, a3, a4, a5, a6, a7, a8, a9, a10, a11, a12, a13, a14, a15, a16, a17, a18⟩ := cx_apply
  obtain ⟨b0, b1, b2, b3, b4, b5, b6, b7, b8, b9, b10, b11, b12, b13, b14, b15, b16, b17, b18⟩ := cy_apply
  obtain ⟨c0, c1, c2, c3, c4, c5, c6, c7, c8, c9, c10, c11, c12, c13, c14, c15, c16, c17, c18⟩ := cz_apply
  rw [bulk_atoms s hkT hsqrt, sum19, a0, a1, a2, a3, a4, a5, a6, a7, a8, a9, a10, a11, a12, a13, a14, a15, a16, a17, a18,
    b0, b1, b2, b3, b4, b5, b6, b7, b8, b9, b10, b11, b12, b13, b14, b15, b16, b17, b18,
    c0, c1, c2, c3, c4, c5, c6, c7, c8, c9, c10, c11, c12, c13, c14, c15, c16, c17, c18]
  simp only [Int.cast_zero, Int.cast_one, Int.cast_neg, zero_mul, one_mul, neg_mul, mul_zero, mul_one,
    mul_neg, neg_neg, add_zero, zero_add, neg_zero]
  simp only [
    xi_40, xi_259, xi_262, xi_263, xi_264, xi_265, xi_269, xi_270, xi_271, xi_272, xi_273, xi_274,
    xi_275, xi_276, xi_277, xi_279, xi_280, xi_12, xi_15, xi_16, xi_17, xi_18, xi_19, xi_20,
    xi_22, xi_24, xi_26, xi_27, xi_28, xi_116, xi_117, xi_118, xi_121, xi_122, xi_41, xi_42,
    xi_48, xi_114, xi_43, xi_44, xi_49, xi_119, xi_120, xi_45, xi_46, xi_47, xi_50, xi_54, xi_55,
    xi_56, xi_115, xi_123,
    z_xi_101, z_xi_102, z_xi_103, z_xi_104, z_xi_106, z_xi_107, z_xi_136, z_xi_137, z_xi_138,
    z_xi_139, z_xi_147, z_xi_148, z_xi_149, z_xi_152, z_xi_153, z_xi_154, z_xi_160, z_xi_171,
    z_xi_175, z_xi_185, z_xi_189, z_xi_193, z_xi_196, z_xi_206, z_xi_215, z_xi_219, z_xi_220,
    z_xi_226, z_xi_227, z_xi_228, z_xi_229, z_xi_236, z_xi_237, z_xi_241, z_xi_244, z_xi_246,
    z_xi_251, z_xi_252,
    zero_mul, mul_zero, neg_zero, add_zero, zero_add, sub_zero, sub_self]
  linear_combination (-s.omega_bulk) * hr

end FluctuatingMRTLatticeModel.kernel_collide

/-! ## Velocity, stress and square roots of a cell, by index -/

namespace FluctuatingMRTLatticeModel

theorem forall_fin4 (P : Fin 4 → Prop) : (∀ i, P i) ↔ P 0 ∧ P 1 ∧ P 2 ∧ P 3 := by
  constructor
  · intro h
    exact ⟨h 0, h 1, h 2, h 3⟩
  · rintro ⟨h0, h1, h2, h3⟩ i
    fin_cases i <;> assumption

/-- The velocity of the collision, by axis. -/
theorem kernel_collide.u_eq (s : Site K) (a : Fin 3) :
    kernel_collide.u s a
      = (∑ q, (cvec q a : K) * s._data_pdfs s.ctr_0 s.ctr_1 s.ctr_2 q) / kernel_collide.rho s := by
  revert a
  rw [forall_fin3]
  exact ⟨kernel_collide.u_0_eq s, kernel_collide.u_1_eq s, kernel_collide.u_2_eq s⟩

/-- The velocity of the fused kernel is the velocity of the collision of the pulled
populations. -/
theorem kernel_streamCollide.u_pull (s : Site K) :
    kernel_streamCollide.u s = kernel_collide.u (pulled s) := by
  funext a
  revert a
  rw [forall_fin3]
  exact ⟨kernel_streamCollide.u_0_pull s, kernel_streamCollide.u_1_pull s,
    kernel_streamCollide.u_2_pull s⟩

/-- The velocity of the fused kernel, by axis. -/
theorem kernel_streamCollide.u_eq_fused (s : Site K) (a : Fin 3) :
    kernel_streamCollide.u s a
      = (∑ q, (cvec q a : K)
            * s._data_pdfs (s.ctr_0 - cx q) (s.ctr_1 - cy q) (s.ctr_2 - cz q) q)
          / kernel_streamCollide.rho s := by
  rw [kernel_streamCollide.u_pull s, kernel_collide.u_eq (pulled s) a,
    kernel_streamCollide.rho_pull s]
  congr 1
  refine Finset.sum_congr rfl (fun q _ => ?_)
  show _ * kernel_stream.values s._data_pdfs s.ctr_0 s.ctr_1 s.ctr_2 q = _
  rw [kernel_stream.values_eq]

theorem sum_swap (c d : Fin 19 → Int) (g : Fin 19 → K) :
    ∑ q, (d q : K) * (c q : K) * g q = ∑ q, (c q : K) * (d q : K) * g q :=
  Finset.sum_congr rfl (fun q _ => by ring)

/-- Without noise the off-diagonal stress written relaxes with `omega_shear` towards
`rho u_a u_b` and receives the velocity-force coupling, for each pair of different axes. -/
theorem kernel_collide.shear_moment [CharZero K] (s : Site K) (hkT : s.kT = 0)
    (hsqrt : s.sqrt 0 = 0) (a b : Fin 3) (hab : a ≠ b) :
    ∑ q, (cvec q a : K) * (cvec q b : K) * kernel_collide.values s q
      = (1 - s.omega_shear)
          * ∑ q, (cvec q a : K) * (cvec q b : K) * s._data_pdfs s.ctr_0 s.ctr_1 s.ctr_2 q
        + s.omega_shear * kernel_collide.rho s * kernel_collide.u s a * kernel_collide.u s b
        + (1 - s.omega_shear / 2)
          * (kernel_collide.u s a * s._data_force s.ctr_0 s.ctr_1 s.ctr_2 b
            + kernel_collide.u s b * s._data_force s.ctr_0 s.ctr_1 s.ctr_2 a) := by
  have hxy := kernel_collide.shear_moment_xy s hkT hsqrt
  have hxz := kernel_collide.shear_moment_xz s hkT hsqrt
  have hyz := kernel_collide.shear_moment_yz s hkT hsqrt
  have hyx : ∑ q, (cy q : K) * (cx q : K) * kernel_collide.values s q
      = (1 - s.omega_shear)
          * ∑ q, (cy q : K) * (cx q : K) * s._data_pdfs s.ctr_0 s.ctr_1 s.ctr_2 q
        + s.omega_shear * kernel_collide.rho s * kernel_collide.u_1 s * kernel_collide.u_0 s
        + (1 - s.omega_shear / 2)
          * (kernel_collide.u_1 s * s._data_force s.ctr_0 s.ctr_1 s.ctr_2 0
            + kernel_collide.u_0 s * s._data_force s.ctr_0 s.ctr_1 s.ctr_2 1) := by
    rw [sum_swap cx cy, sum_swap cx cy]
    linear_combination hxy
  have hzx : ∑ q, (cz q : K) * (cx q : K) * kernel_collide.values s q
      = (1 - s.omega_shear)
          * ∑ q, (cz q : K) * (cx q : K) * s._data_pdfs s.ctr_0 s.ctr_1 s.ctr_2 q
        + s.omega_shear * kernel_collide.rho s * kernel_collide.u_2 s * kernel_collide.u_0 s
        + (1 - s.omega_shear / 2)
          * (kernel_collide.u_2 s * s._data_force s.ctr_0 s.ctr_1 s.ctr_2 0
            + kernel_collide.u_0 s * s._data_force s.ctr_0 s.ctr_1 s.ctr_2 2) := by
    rw [sum_swap cx cz, sum_swap cx cz]
    linear_combination hxz
  have hzy : ∑ q, (cz q : K) * (cy q : K) * kernel_collide.values s q
      = (1 - s.omega_shear)
          * ∑ q, (cz q : K) * (cy q : K) * s._data_pdfs s.ctr_0 s.ctr_1 s.ctr_2 q
        + s.omega_shear * kernel_collide.rho s * kernel_collide.u_2 s * kernel_collide.u_1 s
        + (1 - s.omega_shear / 2)
          * (kernel_collide.u_2 s * s._data_force s.ctr_0 s.ctr_1 s.ctr_2 1
            + kernel_collide.u_1 s * s._data_force s.ctr_0 s.ctr_1 s.ctr_2 2) := by
    rw [sum_swap cy cz, sum_swap cy cz]
    linear_combination hyz
  fin_cases a <;> fin_cases b
  · exact absurd rfl hab
  · exact hxy
  · exact hxz
  · exact hyx
  · exact absurd rfl hab
  · exact hyz
  · exact hzx
  · exact hzy
  · exact absurd rfl hab

/-- Without noise the trace of the stress written relaxes with `omega_bulk`, with the sums
over the axes written out. -/
theorem kernel_collide.bulk_moment_sum [CharZero K] (s : Site K) (hkT : s.kT = 0)
    (hsqrt : s.sqrt 0 = 0) :
    ∑ q, (∑ a, (cvec q a : K) ^ 2) * kernel_collide.values s q
      = ∑ q, (∑ a, (cvec q a : K) ^ 2) * s._data_pdfs s.ctr_0 s.ctr_1 s.ctr_2 q
        - s.omega_bulk * (∑ q, (∑ a, (cvec q a : K) ^ 2) * s._data_pdfs s.ctr_0 s.ctr_1 s.ctr_2 q
            - kernel_collide.rho s * (1 + ∑ a, kernel_collide.u s a ^ 2))
        + (2 - s.omega_bulk)
          * ∑ a, kernel_collide.u s a * s._data_force s.ctr_0 s.ctr_1 s.ctr_2 a := by
  have h := kernel_collide.bulk_moment s hkT hsqrt
  have e : ∀ q : Fin 19, (∑ a, (cvec q a : K) ^ 2)
      = (cx q : K) ^ 2 + (cy q : K) ^ 2 + (cz q : K) ^ 2 := by
    intro q
    rw [Fin.sum_univ_three]
    rfl
  have hu0 : kernel_collide.u s 0 = kernel_collide.u_0 s := rfl
  have hu1 : kernel_collide.u s 1 = kernel_collide.u_1 s := rfl
  have hu2 : kernel_collide.u s 2 = kernel_collide.u_2 s := rfl
  simp only [e]
  rw [Fin.sum_univ_three, Fin.sum_univ_three, hu0, hu1, hu2]
  linear_combination h

/-- Each argument of `sqrt` is `kT * rho * (1 - (1 - w)^2)` for its relaxation rate `w`. -/
theorem kernel_collide.sqrtArgs_eq (s : Site K) (i : Fin 4) :
    kernel_collide.sqrtArgs s i
      = s.kT * kernel_collide.rho s * (1 - (1 - sqrtRate s i) ^ 2) := by
  have h0 : kernel_collide.xi_101 s * (-((-s.omega_even + 1) * (-s.omega_even + 1)) + 1)
      = s.kT * kernel_collide.rho s * (1 - (1 - s.omega_even) ^ 2) := by
    simp only [kernel_collide.xi_101]
    ring
  have h1 : kernel_collide.xi_101 s
        * (-((kernel_collide.xi_40 s + 1) * (kernel_collide.xi_40 s + 1)) + 1)
      = s.kT * kernel_collide.rho s * (1 - (1 - s.omega_bulk) ^ 2) := by
    simp only [kernel_collide.xi_101, kernel_collide.xi_40]
    ring
  have h2 : kernel_collide.xi_101 s * (-((-s.omega_odd + 1) * (-s.omega_odd + 1)) + 1)
      = s.kT * kernel_collide.rho s * (1 - (1 - s.omega_odd) ^ 2) := by
    simp only [kernel_collide.xi_101]
    ring
  have h3 : kernel_collide.xi_101 s
        * (-((kernel_collide.xi_51 s + 1) * (kernel_collide.xi_51 s + 1)) + 1)
      = s.kT * kernel_collide.rho s * (1 - (1 - s.omega_shear) ^ 2) := by
    simp only [kernel_collide.xi_101, kernel_collide.xi_51]
    ring
  revert i
  rw [forall_fin4]
  exact ⟨h0, h1, h2, h3⟩

/-- The collision does not read the second value of the call with mode index 7. -/
theorem kernel_collide.values_replaceLastDraw (s : Site K) (v : K) :
    kernel_collide.values
        ⟨s.sqrt, replaceLastDraw s.philox_double2 v, s._data_force, s._data_pdfs,
          s.block_offset_0, s.block_offset_1, s.block_offset_2, s.kT, s.omega_bulk,
          s.omega_even, s.omega_odd, s.omega_shear, s.seed, s.time_step, s.ctr_0, s.ctr_1,
          s.ctr_2⟩
      = kernel_collide.values s :=
  kernel_collide.values_eq_of_draws _ s rfl rfl rfl rfl rfl rfl (fun _ => rfl) (fun _ => rfl)
    rfl rfl rfl rfl rfl rfl rfl rfl rfl rfl rfl rfl rfl rfl rfl

end FluctuatingMRTLatticeModel

/-! ## What the sweeps read and write -/

namespace FluctuatingMRTLatticeModel.Sweep

/-- A cell outside the swept region holds after `Sweep::streamCollide` what the temporary field
held. -/
theorem streamCollide_data_outside (sqrt : K → K) (philox_double2 : Philox K) (block : Block K)
    (g : Nat) (x y z : Int) (q : Fin 19)
    (h : ¬ ((-(g : Int) ≤ x ∧ x < block.lm.force_.xSize + g)
      ∧ (-(g : Int) ≤ y ∧ y < block.lm.force_.ySize + g)
      ∧ (-(g : Int) ≤ z ∧ z < block.lm.force_.zSize + g))) :
    (streamCollide sqrt philox_double2 block g).pdfs.data x y z q
      = block.pdfs_tmp.data x y z q := by
  show kernel_streamCollide _ _ _ _ _ _ _ _ _ _ _ _ _ _ _ _ _ _ _ _ _ _ = _
  rw [kernel_streamCollide_apply, if_neg (by omega)]
  show block.pdfs_tmp.data _ _ _ q = block.pdfs_tmp.data _ _ _ q
  congr 1 <;> omega

/-- `Sweep::stream` reads the populations of the cells within `g + 1` layers of the owned
region only. -/
theorem stream_reads (block : Block K) (g : Nat) (p : PdfField K)
    (hp : ∀ (x y z : Int) (q : Fin 19),
      (-(g : Int) - 1 ≤ x ∧ x < block.pdfs.xSize + g + 1)
        ∧ (-(g : Int) - 1 ≤ y ∧ y < block.pdfs.ySize + g + 1)
        ∧ (-(g : Int) - 1 ≤ z ∧ z < block.pdfs.zSize + g + 1) →
      p x y z q = block.pdfs.data x y z q) :
    (stream ⟨{ block.pdfs with data := p }, block.pdfs_tmp, block.lm⟩ g).pdfs.data
      = (stream block g).pdfs.data := by
  funext x y z q
  by_cases h : (-(g : Int) ≤ x ∧ x < block.pdfs.xSize + g)
      ∧ (-(g : Int) ≤ y ∧ y < block.pdfs.ySize + g)
      ∧ (-(g : Int) ≤ z ∧ z < block.pdfs.zSize + g)
  · rw [stream_data block g x y z q h]
    refine (stream_data ⟨{ block.pdfs with data := p }, block.pdfs_tmp, block.lm⟩ g x y z q
      h).trans ?_
    have hb := cvel_bounds q
    exact hp _ _ _ q (by omega)
  · rw [stream_data_outside block g x y z q h]
    exact stream_data_outside ⟨{ block.pdfs with data := p }, block.pdfs_tmp, block.lm⟩ g x y z
      q h

/-- `Sweep::streamCollide` reads the populations of the cells within `g + 1` layers of the
owned region and the force of the cells within `g` layers only. -/
theorem streamCollide_reads (sqrt : K → K) (philox_double2 : Philox K) (block : Block K)
    (g : Nat) (p : PdfField K) (F : ForceField K)
    (hp : ∀ (x y z : Int) (q : Fin 19),
      (-(g : Int) - 1 ≤ x ∧ x < block.lm.force_.xSize + g + 1)
        ∧ (-(g : Int) - 1 ≤ y ∧ y < block.lm.force_.ySize + g + 1)
        ∧ (-(g : Int) - 1 ≤ z ∧ z < block.lm.force_.zSize + g + 1) →
      p x y z q = block.pdfs.data x y z q)
    (hF : ∀ (x y z : Int) (a : Fin 3),
      (-(g : Int) ≤ x ∧ x < block.lm.force_.xSize + g)
        ∧ (-(g : Int) ≤ y ∧ y < block.lm.force_.ySize + g)
        ∧ (-(g : Int) ≤ z ∧ z < block.lm.force_.zSize + g) →
      F x y z a = block.lm.force_.data x y z a) :
    (streamCollide sqrt philox_double2
        ⟨{ block.pdfs with data := p }, block.pdfs_tmp,
          { block.lm with force_ := { block.lm.force_ with data := F } }⟩ g).pdfs.data
      = (streamCollide sqrt philox_double2 block g).pdfs.data := by
  funext x y z q
  by_cases h : (-(g : Int) ≤ x ∧ x < block.lm.force_.xSize + g)
      ∧ (-(g : Int) ≤ y ∧ y < block.lm.force_.ySize + g)
      ∧ (-(g : Int) ≤ z ∧ z < block.lm.force_.zSize + g)
  · rw [streamCollide_data sqrt philox_double2 block g x y z q h]
    refine (streamCollide_data sqrt philox_double2
      ⟨{ block.pdfs with data := p }, block.pdfs_tmp,
        { block.lm with force_ := { block.lm.force_ with data := F } }⟩ g x y z q h).trans ?_
    rw [kernel_streamCollide.values_pull, kernel_streamCollide.values_pull]
    refine congrFun (kernel_collide.values_eq_of_reads _ _ ?_ ?_ ?_ ?_ ?_ ?_ ?h_pdfs ?h_force
      ?_ ?_ ?_ ?_ ?_ ?_ ?_ ?_) q
    case h_pdfs =>
      intro q'
      show kernel_stream.values _ (x + g + 1) (y + g + 1) (z + g + 1) q'
        = kernel_stream.values _ (x + g + 1) (y + g + 1) (z + g + 1) q'
      rw [kernel_stream.values_eq, kernel_stream.values_eq]
      show p (-(g : Int) - 1 + (x + g + 1 - cx q')) (-(g : Int) - 1 + (y + g + 1 - cy q'))
          (-(g : Int) - 1 + (z + g + 1 - cz q')) q'
        = block.pdfs.data (-(g : Int) - 1 + (x + g + 1 - cx q'))
          (-(g : Int) - 1 + (y + g + 1 - cy q')) (-(g : Int) - 1 + (z + g + 1 - cz q')) q'
      have hb := cvel_bounds q'
      exact hp _ _ _ q' (by omega)
    case h_force =>
      intro a
      show F (-(g : Int) - 1 + (x + g + 1)) (-(g : Int) - 1 + (y + g + 1))
          (-(g : Int) - 1 + (z + g + 1)) a
        = block.lm.force_.data (-(g : Int) - 1 + (x + g + 1)) (-(g : Int) - 1 + (y + g + 1))
          (-(g : Int) - 1 + (z + g + 1)) a
      exact hF _ _ _ a (by omega)
    all_goals rfl
  · rw [streamCollide_data_outside sqrt philox_double2 block g x y z q h]
    exact streamCollide_data_outside sqrt philox_double2
      ⟨{ block.pdfs with data := p }, block.pdfs_tmp,
        { block.lm with force_ := { block.lm.force_ with data := F } }⟩ g x y z q h

/-- The checks of `Sweep::stream` ask for `g + 1` ghost layers. -/
theorem stream_asserts_iff (block : Block K) (g : Nat) :
    stream_asserts block g = true
      ↔ g + 1 ≤ block.pdfs.nrOfGhostLayers ∧ g + 1 ≤ block.pdfs_tmp.nrOfGhostLayers := by
  simp only [stream_asserts, GhostLayerField.xSizeWithGhostLayer,
    GhostLayerField.ySizeWithGhostLayer, GhostLayerField.zSizeWithGhostLayer, Bool.and_eq_true,
    decide_eq_true_eq]
  omega

/-- The checks of `Sweep::streamCollide` ask for `g + 1` ghost layers. -/
theorem streamCollide_asserts_iff (block : Block K) (g : Nat) :
    streamCollide_asserts block g = true
      ↔ g + 1 ≤ block.lm.force_.nrOfGhostLayers ∧ g + 1 ≤ block.pdfs.nrOfGhostLayers
        ∧ g + 1 ≤ block.pdfs_tmp.nrOfGhostLayers := by
  simp only [streamCollide_asserts, GhostLayerField.xSizeWithGhostLayer,
    GhostLayerField.ySizeWithGhostLayer, GhostLayerField.zSizeWithGhostLayer, Bool.and_eq_true,
    decide_eq_true_eq]
  omega

end FluctuatingMRTLatticeModel.Sweep

/-! ## Facts about the concrete inputs -/

namespace Example

/-- The populations `pdfsG` agree with those of `blockY` within one layer of the owned cell. -/
theorem pdfsG_agrees (x y z : Int) (q : Fin 19)
    (h : (-((0 : Nat) : Int) - 1 ≤ x ∧ x < blockY.lm.force_.xSize + ((0 : Nat) : Int) + 1)
      ∧ (-((0 : Nat) : Int) - 1 ≤ y ∧ y < blockY.lm.force_.ySize + ((0 : Nat) : Int) + 1)
      ∧ (-((0 : Nat) : Int) - 1 ≤ z ∧ z < blockY.lm.force_.zSize + ((0 : Nat) : Int) + 1)) :
    pdfsG x y z q = blockY.pdfs.data x y z q := by
  have h' : (-1 ≤ x ∧ x ≤ 1) ∧ (-1 ≤ y ∧ y ≤ 1) ∧ (-1 ≤ z ∧ z ≤ 1) := by
    change (-((0 : Nat) : Int) - 1 ≤ x ∧ x < ((1 : Nat) : Int) + ((0 : Nat) : Int) + 1)
      ∧ (-((0 : Nat) : Int) - 1 ≤ y ∧ y < ((1 : Nat) : Int) + ((0 : Nat) : Int) + 1)
      ∧ (-((0 : Nat) : Int) - 1 ≤ z ∧ z < ((1 : Nat) : Int) + ((0 : Nat) : Int) + 1) at h
    omega
  show (if (-1 ≤ x ∧ x ≤ 1) ∧ (-1 ≤ y ∧ y ≤ 1) ∧ (-1 ≤ z ∧ z ≤ 1) then pdfsC x y z q else 5)
    = pdfsC x y z q
  rw [if_pos h']

/-- The uniform force `forceY` agrees with the force of `blockY` on the owned cell. -/
theorem forceY_agrees (x y z : Int) (a : Fin 3)
    (h : (-((0 : Nat) : Int) ≤ x ∧ x < blockY.lm.force_.xSize + ((0 : Nat) : Int))
      ∧ (-((0 : Nat) : Int) ≤ y ∧ y < blockY.lm.force_.ySize + ((0 : Nat) : Int))
      ∧ (-((0 : Nat) : Int) ≤ z ∧ z < blockY.lm.force_.zSize + ((0 : Nat) : Int))) :
    forceY x y z a = blockY.lm.force_.data x y z a := by
  have h' : x = 0 ∧ y = 0 ∧ z = 0 := by
    change (-((0 : Nat) : Int) ≤ x ∧ x < ((1 : Nat) : Int) + ((0 : Nat) : Int))
      ∧ (-((0 : Nat) : Int) ≤ y ∧ y < ((1 : Nat) : Int) + ((0 : Nat) : Int))
      ∧ (-((0 : Nat) : Int) ≤ z ∧ z < ((1 : Nat) : Int) + ((0 : Nat) : Int)) at h
    omega
  obtain ⟨hx, hy, hz⟩ := h'
  show (if a = 1 then (6 : ℚ) else 0) = (if x = 0 ∧ y = 0 ∧ z = 0 ∧ a = 1 then (6 : ℚ) else 0)
  simp only [hx, hy, hz, true_and]

/-- Outside the owned cell the force of `blockG` differs from the force of `blockY`. -/
theorem forceY_differs (x y z : Int) (h : ¬ (x = 0 ∧ y = 0 ∧ z = 0)) :
    blockG.lm.force_.data x y z 1 ≠ blockY.lm.force_.data x y z 1 := by
  show (if (1 : Fin 3) = 1 then (6 : ℚ) else 0)
    ≠ (if x = 0 ∧ y = 0 ∧ z = 0 ∧ (1 : Fin 3) = 1 then (6 : ℚ) else 0)
  rw [if_pos rfl, if_neg (fun c => h ⟨c.1, c.2.1, c.2.2.1⟩)]
  norm_num

/-- Two or more layers outside the owned cell the populations of `blockG` differ from those of
`blockY` in every slot. -/
theorem pdfsG_differs (x y z : Int) (q : Fin 19)
    (h : ¬ ((-1 ≤ x ∧ x ≤ 1) ∧ (-1 ≤ y ∧ y ≤ 1) ∧ (-1 ≤ z ∧ z ≤ 1))) :
    blockG.pdfs.data x y z q ≠ blockY.pdfs.data x y z q := by
  show (if (-1 ≤ x ∧ x ≤ 1) ∧ (-1 ≤ y ∧ y ≤ 1) ∧ (-1 ≤ z ∧ z ≤ 1) then pdfsC x y z q else 5)
    ≠ (if q = 0 then (1 : ℚ) else 0)
  rw [if_neg h]
  split <;> norm_num

end Example

namespace Example

/-- The density of the populations `pdfsE`. -/
theorem pdfsE_sum : (2 : ℚ) = ∑ q, pdfsE 1 1 1 q := by
  rw [sum19]
  simp [pdfsE]
  norm_num

/-- The velocity of the populations `pdfsE`. -/
theorem uE_eq (a : Fin 3) : uE a = (∑ q, (cvec q a : ℚ) * pdfsE 1 1 1 q) / 2 := by
  have hx : cx 0 = 0 ∧ cx 8 = 1 := by decide
  have hy : cy 0 = 0 ∧ cy 8 = 1 := by decide
  have hz : cz 0 = 0 ∧ cz 8 = 0 := by decide
  rw [sum19]
  fin_cases a <;> simp [pdfsE, uE, cvec, hx, hy, hz]

end Example

/-! ## The sixteen draws of a cell -/

theorem replaceLastDraw_fst (p : Philox K) (v : K) (a b c d k e : Nat) :
    (replaceLastDraw p v a b c d k e).1 = (p a b c d k e).1 := by
  unfold replaceLastDraw
  split <;> rfl

theorem replaceLastDraw_of_ne (p : Philox K) (v : K) (a b c d k e : Nat) (hk : k ≠ 7) :
    replaceLastDraw p v a b c d k e = p a b c d k e :=
  if_neg hk

namespace FluctuatingMRTLatticeModel

/-- The call of the generator behind the pair of draws with mode index `k`. -/
theorem kernel_collide.draws_eq (s : Site K) (k : Fin 8) :
    kernel_collide.draws s k
      = s.philox_double2 s.time_step (u32 ((s.block_offset_0 : Int) + s.ctr_0))
          (u32 ((s.block_offset_1 : Int) + s.ctr_1))
          (u32 ((s.block_offset_2 : Int) + s.ctr_2)) k s.seed := by
  fin_cases k <;> rfl

/-- Replacing the second value of the call with mode index 7 changes none of the first
fifteen draws. -/
theorem kernel_collide.draw16_replaceLastDraw (s : Site K) (v : K) (i : Fin 16)
    (hi : i.val ≠ 15) :
    kernel_collide.draw16
        ⟨s.sqrt, replaceLastDraw s.philox_double2 v, s._data_force, s._data_pdfs,
          s.block_offset_0, s.block_offset_1, s.block_offset_2, s.kT, s.omega_bulk,
          s.omega_even, s.omega_odd, s.omega_shear, s.seed, s.time_step, s.ctr_0, s.ctr_1,
          s.ctr_2⟩ i
      = kernel_collide.draw16 s i := by
  have hlt := i.isLt
  unfold kernel_collide.draw16
  rw [kernel_collide.draws_eq, kernel_collide.draws_eq]
  split
  · exact replaceLastDraw_fst _ _ _ _ _ _ _ _
  · exact congrArg Prod.snd (replaceLastDraw_of_ne _ _ _ _ _ _ _ _ (by
      show i.val / 2 ≠ 7
      omega))

/-- The sixteenth draw is the second value of the call with mode index 7. -/
theorem kernel_collide.draw16_last (s : Site K) :
    kernel_collide.draw16 s (Fin.last 15)
      = (s.philox_double2 s.time_step (u32 ((s.block_offset_0 : Int) + s.ctr_0))
          (u32 ((s.block_offset_1 : Int) + s.ctr_1))
          (u32 ((s.block_offset_2 : Int) + s.ctr_2)) 7 s.seed).2 :=
  rfl

end FluctuatingMRTLatticeModel

/-! ## Loops that store into every slot once -/

/-- A loop over a list without repetitions that overwrites slot `i` with `f i` of its content
has rewritten exactly the slots of the list. -/
theorem foldl_update_of_nodup {ι α : Type} [DecidableEq ι] (f : ι → α → α) :
    ∀ (l : List ι), l.Nodup → ∀ (a : ι → α) (j : ι),
      l.foldl (fun a i => Function.update a i (f i (a i))) a j
        = if j ∈ l then f j (a j) else a j := by
  intro l
  induction l with
  | nil => intro _ a j; simp
  | cons i l ih =>
    intro hl a j
    rw [List.nodup_cons] at hl
    rw [List.foldl_cons, ih hl.2]
    by_cases hj : j = i
    · subst hj
      simp [hl.1]
    · simp [hj, Function.update_noteq hj]

/-- A loop over all of `Fin n` that overwrites slot `i` with `f i` of its content. -/
theorem foldl_update_finRange {n : Nat} {α : Type} (f : Fin n → α → α) (a : Fin n → α) :
    (List.finRange n).foldl (fun a i => Function.update a i (f i (a i))) a
      = fun j => f j (a j) := by
  funext j
  rw [foldl_update_of_nodup f _ (List.nodup_finRange n), if_pos (List.mem_finRange j)]

namespace lb

theorem lb_get_populations_apply (lbmodel : LB_Model K) (lbpar : LB_Parameters K)
    (lbfluid : LB_Fluid K) (index : Nat) (pop : Fin 19 → K) (i : Fin 19) :
    lb_get_populations lbmodel lbpar lbfluid index pop i
      = lbfluid i index + lbmodel.coeff i 0 * lbpar.rho := by
  unfold lb_get_populations
  rw [foldl_update_finRange (fun i _ => lbfluid i index + lbmodel.coeff i 0 * lbpar.rho)]

theorem lb_set_populations_apply (lbmodel : LB_Model K) (lbpar : LB_Parameters K)
    (lbfluid : LB_Fluid K) (index : Nat) (pop : Fin 19 → K) (i : Fin 19) (j : Nat) :
    lb_set_populations lbmodel lbpar lbfluid index pop i j
      = if j = index then pop i - lbmodel.coeff i 0 * lbpar.rho else lbfluid i j := by
  have h := @foldl_update_finRange 19 (Nat → K)
    (fun i row => Function.update row index (pop i - lbmodel.coeff i 0 * lbpar.rho)) lbfluid
  refine (congrFun (congrFun h i) j).trans ?_
  by_cases hj : j = index
  · subst hj
    simp
  · rw [if_neg hj]
    exact Function.update_noteq hj _ _

end lb

namespace Utils

/-- The instance `I` of `inner_product_impl` returns the sum of the products from `I` on. -/
theorem inner_product_impl_eq {N : Nat} (left_array : Fin N → Int) (right_array : Fin N → K) :
    ∀ (k I : Nat) (hI : I < N), N - 1 - I = k →
      inner_product_impl left_array right_array I hI
        = ∑ i : Fin N, if I ≤ i.val then (left_array i : K) * right_array i else 0 := by
  intro k
  induction k with
  | zero =>
    intro I hI hk
    have hlast : I = N - 1 := by omega
    rw [inner_product_impl, dif_pos hlast]
    rw [Finset.sum_eq_single (⟨I, hI⟩ : Fin N)]
    · rw [if_pos (le_refl _)]
      split
      · next h0 => rw [h0, Int.cast_zero, zero_mul]
      · rfl
    · intro b _ hb
      have hne : b.val ≠ I := fun h => hb (Fin.ext h)
      have hlt := b.isLt
      rw [if_neg (by omega)]
    · intro h
      exact absurd (Finset.mem_univ _) h
  | succ k ih =>
    intro I hI hk
    have hlast : I ≠ N - 1 := by omega
    have hsplit : ∀ i : Fin N,
        (if I ≤ i.val then (left_array i : K) * right_array i else 0)
          = (if i = (⟨I, hI⟩ : Fin N) then (left_array i : K) * right_array i else 0)
            + (if I + 1 ≤ i.val then (left_array i : K) * right_array i else 0) := by
      intro i
      by_cases h1 : i = (⟨I, hI⟩ : Fin N)
      · subst h1
        simp
      · have hne : i.val ≠ I := fun h => h1 (Fin.ext h)
        rw [if_neg h1, zero_add]
        by_cases h2 : I ≤ i.val
        · rw [if_pos h2, if_pos (by omega)]
        · rw [if_neg h2, if_neg (by omega)]
    rw [inner_product_impl, dif_neg hlast, ih (I + 1) (by omega) (by omega)]
    simp only [hsplit]
    rw [Finset.sum_add_distrib, Finset.sum_ite_eq' Finset.univ (⟨I, hI⟩ : Fin N),
      if_pos (Finset.mem_univ _)]
    split
    · next h0 => rw [h0, Int.cast_zero, zero_mul, zero_add]
    · rfl

end Utils

namespace bonded_interaction_data

section Cutoff

variable {F : Type} [LinearOrderedField F]

/-- With both features switched off, one step of the first loop takes the maximum with the
cutoff of the bond, when it has one. -/
theorem bond_length_step_eq (C : Config) (hT : C.TABULATED = false)
    (hI : C.IMMERSED_BOUNDARY = false) (sqrt : F → F) (m : F) (b : Bonded_ia_parameters F) :
    recalc_maximal_cutoff_bonded.bond_length_step C sqrt m b
      = match bond_length_cutoff C sqrt b with
        | some c => max m c
        | none => m := by
  have hmax : ∀ c : F, (if m < c then c else m) = max m c := by
    intro c
    rcases lt_or_le m c with h | h
    · rw [if_pos h, max_eq_right h.le]
    · rw [if_neg (not_lt.mpr h), max_eq_left h]
  unfold recalc_maximal_cutoff_bonded.bond_length_step bond_length_cutoff
  by_cases h1 : b.type = C.BONDED_IA_FENE
  · simp only [if_pos h1]
    exact hmax _
  by_cases h2 : b.type = C.BONDED_IA_HARMONIC
  · simp only [if_neg h1, if_pos h2]
    by_cases hr : 0 < b.p.harmonic.r_cut
    · simp only [if_pos hr, gt_iff_lt, hr, true_and]
      exact hmax _
    · simp only [if_neg hr, gt_iff_lt, hr, false_and, if_false]
  by_cases h3 : b.type = C.BONDED_IA_THERMALIZED_DIST
  · simp only [if_neg h1, if_neg h2, if_pos h3]
    by_cases hr : 0 < b.p.thermalized_bond.r_cut
    · simp only [if_pos hr, gt_iff_lt, hr, true_and]
      exact hmax _
    · simp only [if_neg hr, gt_iff_lt, hr, false_and, if_false]
  by_cases h4 : b.type = C.BONDED_IA_RIGID_BOND
  · simp only [if_neg h1, if_neg h2, if_neg h3, if_pos h4]
    exact hmax _
  simp only [if_neg h1, if_neg h2, if_neg h3, if_neg h4, hT, hI, Bool.false_eq_true, false_and,
    if_false]

theorem maximal_bond_length_cutoff_nonneg (C : Config) (sqrt : F → F)
    (l : List (Bonded_ia_parameters F)) : 0 ≤ maximal_bond_length_cutoff C sqrt l := by
  unfold maximal_bond_length_cutoff
  induction l.filterMap (bond_length_cutoff C sqrt) with
  | nil => exact le_refl _
  | cons c cs ih => exact le_max_of_le_right ih

theorem maximal_bond_length_cutoff_cons (C : Config) (sqrt : F → F)
    (b : Bonded_ia_parameters F) (l : List (Bonded_ia_parameters F)) :
    maximal_bond_length_cutoff C sqrt (b :: l)
      = match bond_length_cutoff C sqrt b with
        | some c => max c (maximal_bond_length_cutoff C sqrt l)
        | none => maximal_bond_length_cutoff C sqrt l := by
  unfold maximal_bond_length_cutoff
  cases h : bond_length_cutoff C sqrt b with
  | none => rw [List.filterMap_cons_none h]
  | some c => rw [List.filterMap_cons_some h, List.foldr_cons]

/-- The first loop, started from a non-negative value. -/
theorem first_loop_eq (C : Config) (hT : C.TABULATED = false)
    (hI : C.IMMERSED_BOUNDARY = false) (sqrt : F → F) :
    ∀ (l : List (Bonded_ia_parameters F)) (m : F), 0 ≤ m →
      l.foldl (recalc_maximal_cutoff_bonded.bond_length_step C sqrt) m
        = max m (maximal_bond_length_cutoff C sqrt l) := by
  intro l
  induction l with
  | nil =>
    intro m hm
    show m = max m 0
    rw [max_eq_left hm]
  | cons b l ih =>
    intro m hm
    rw [List.foldl_cons, bond_length_step_eq C hT hI, maximal_bond_length_cutoff_cons]
    cases bond_length_cutoff C sqrt b with
    | none => exact ih m hm
    | some c =>
      show List.foldl _ (max m c) l = max m (max c _)
      rw [ih (max m c) (le_max_of_le_left hm), max_assoc]

/-- The second loop of `recalc_maximal_cutoff_bonded` with `TABULATED` switched off. -/
theorem second_loop_eq (C : Config) (hT : C.TABULATED = false) (t : F) :
    ∀ (l : List (Bonded_ia_parameters F)) (m : F),
      l.foldl (recalc_maximal_cutoff_bonded.dihedral_step C t) m
        = if (∃ b ∈ l, b.type = C.BONDED_IA_DIHEDRAL) then t else m := by
  intro l
  induction l with
  | nil => intro m; simp
  | cons b l ih =>
    intro m
    rw [List.foldl_cons, ih]
    unfold recalc_maximal_cutoff_bonded.dihedral_step
    by_cases hb : b.type = C.BONDED_IA_DIHEDRAL
    · simp [hb]
    · simp [hb, hT]

/-- The maximum of the cutoffs bounds the cutoff of every bond of the list. -/
theorem le_maximal_bond_length_cutoff (C : Config) (sqrt : F → F) :
    ∀ (l : List (Bonded_ia_parameters F)) (b : Bonded_ia_parameters F), b ∈ l → ∀ c : F,
      bond_length_cutoff C sqrt b = some c → c ≤ maximal_bond_length_cutoff C sqrt l := by
  intro l
  induction l with
  | nil => intro b hb; exact absurd hb (List.not_mem_nil b)
  | cons a l ih =>
    intro b hb c hc
    rw [maximal_bond_length_cutoff_cons]
    rcases List.mem_cons.mp hb with rfl | hb'
    · rw [hc]
      exact le_max_left _ _
    · have := ih b hb' c hc
      cases bond_length_cutoff C sqrt a with
      | none => exact this
      | some c' => exact le_max_of_le_right this

/-- The maximum of the cutoffs does not depend on the order of the list. -/
theorem maximal_bond_length_cutoff_perm (C : Config) (sqrt : F → F)
    (l l' : List (Bonded_ia_parameters F)) (h : l.Perm l') :
    maximal_bond_length_cutoff C sqrt l = maximal_bond_length_cutoff C sqrt l' := by
  unfold maximal_bond_length_cutoff
  have lc : LeftCommutative (max : F → F → F) := ⟨fun a b c => max_left_comm a b c⟩
  exact @List.Perm.foldr_eq _ _ _ _ _ lc (h.filterMap _) 0

end Cutoff

/-- The loop of `make_bond_type_exist` sets the type of the entries from `old` on. -/
theorem forLoop_modify {α : Type} (f : α → α) (l : List α) (old : Nat) :
    ∀ (m : Nat) (j : Nat),
      ((List.range m).foldl
          (fun acc (k : Nat) => List.modify f ((old : Int) + 1 * (k : Int)).toNat acc) l)[j]?
        = (fun a => if old ≤ j ∧ j < old + m then f a else a) <$> l[j]? := by
  intro m
  induction m with
  | zero =>
    intro j
    have h0 : ¬ (old ≤ j ∧ j < old + 0) := by omega
    simp only [List.range_zero, List.foldl_nil, if_neg h0]
    cases l[j]? <;> rfl
  | succ m ih =>
    intro j
    rw [List.range_succ, List.foldl_append]
    simp only [List.foldl_cons, List.foldl_nil]
    rw [List.getElem?_modify, ih]
    have hidx : ((old : Int) + 1 * ((m : Nat) : Int)).toNat = old + m := by omega
    rw [hidx]
    cases l[j]? with
    | none => rfl
    | some a =>
      simp only [Option.map_eq_map, Option.map_some']
      congr 1
      by_cases h1 : old + m = j
      · have h2 : ¬ (old ≤ j ∧ j < old + m) := by omega
        have h3 : old ≤ j ∧ j < old + (m + 1) := by omega
        rw [if_pos h1, if_neg h2, if_pos h3]
      · by_cases h2 : old ≤ j ∧ j < old + m
        · have h3 : old ≤ j ∧ j < old + (m + 1) := by omega
          rw [if_neg h1, if_pos h2, if_pos h3]
        · have h3 : ¬ (old ≤ j ∧ j < old + (m + 1)) := by omega
          rw [if_neg h1, if_neg h2, if_neg h3]

/-- For a type beyond the list `make_bond_type_exist` appends entries of type
`BONDED_IA_NONE` up to the index `type`. -/
theorem make_bond_type_exist_of_le {F : Type} (C : Config) (fresh : Bonded_ia_parameters F)
    (l : List (Bonded_ia_parameters F)) (t : Int) (h : (l.length : Int) ≤ t) :
    make_bond_type_exist C fresh l t
      = some (l ++ List.replicate ((t + 1).toNat - l.length)
          { fresh with type := C.BONDED_IA_NONE }) := by
  unfold make_bond_type_exist
  simp only []
  rw [if_neg (by omega), if_neg (by omega)]
  congr 1
  apply List.ext_getElem?
  intro j
  unfold forLoop
  rw [forLoop_modify]
  have hcount : ((t + 1 - (l.length : Int) + 1 - 1) / 1).toNat = (t + 1).toNat - l.length := by
    rw [Int.ediv_one]
    omega
  rw [hcount, List.getElem?_append, List.getElem?_append]
  by_cases hj : j < l.length
  · have h2 : ¬ (l.length ≤ j ∧ j < l.length + ((t + 1).toNat - l.length)) := by omega
    rw [if_pos hj, if_pos hj]
    cases l[j]? with
    | none => rfl
    | some a => simp [h2]
  · rw [if_neg hj, if_neg hj, List.getElem?_replicate, List.getElem?_replicate]
    by_cases hk : j - l.length < (t + 1).toNat - l.length
    · have h2 : l.length ≤ j ∧ j < l.length + ((t + 1).toNat - l.length) := by omega
      simp [hk, h2]
    · simp [hk]

/-- For a type within the list `make_bond_type_exist` changes nothing. -/
theorem make_bond_type_exist_of_lt {F : Type} (C : Config) (fresh : Bonded_ia_parameters F)
    (l : List (Bonded_ia_parameters F)) (t : Int) (h0 : 0 ≤ t) (h : t < (l.length : Int)) :
    make_bond_type_exist C fresh l t = some l := by
  unfold make_bond_type_exist
  simp only []
  rw [if_neg (by omega), if_pos (by omega)]

end bonded_interaction_data

/-! ## The indices an x loop visits -/

open FluctuatingMRTLatticeModel in
/-- C1 (mass conservation).  For every population field, force field, four relaxation rates,
`kT`, generator, seed, time step and block offsets: at every cell of the box the nineteen
populations written by `kernel_collide` sum to the nineteen populations it read there, and at
every interior cell the nineteen values written by `kernel_streamCollide` sum to the nineteen
neighbour populations it pulled.  (Exact arithmetic in a field of characteristic zero; `1/rho`
is the field inverse.) -/
theorem mass_conservation [CharZero K] (sqrt : K → K) (philox_double2 : Philox K)
    (_data_force : ForceField K) (_data_pdfs _data_pdfs_tmp : PdfField K)
    (_size_force_0 _size_force_1 _size_force_2 : Int)
    (block_offset_0 block_offset_1 block_offset_2 : Nat)
    (kT omega_bulk omega_even omega_odd omega_shear : K) (seed time_step : Nat) (x y z : Int) :
    ((0 ≤ x ∧ x < _size_force_0) ∧ (0 ≤ y ∧ y < _size_force_1) ∧ (0 ≤ z ∧ z < _size_force_2) →
      ∑ q, kernel_collide sqrt philox_double2 _data_force _data_pdfs
          _size_force_0 _size_force_1 _size_force_2 block_offset_0 block_offset_1 block_offset_2
          kT omega_bulk omega_even omega_odd omega_shear seed time_step x y z q
        = ∑ q, _data_pdfs x y z q) ∧
    ((1 ≤ x ∧ x < _size_force_0 - 1) ∧ (1 ≤ y ∧ y < _size_force_1 - 1)
        ∧ (1 ≤ z ∧ z < _size_force_2 - 1) →
      ∑ q, kernel_streamCollide sqrt philox_double2 _data_force _data_pdfs _data_pdfs_tmp
          _size_force_0 _size_force_1 _size_force_2 block_offset_0 block_offset_1 block_offset_2
          kT omega_bulk omega_even omega_odd omega_shear seed time_step x y z q
        = ∑ q, _data_pdfs (x - cx q) (y - cy q) (z - cz q) q) := by
  constructor
  · intro h
    simp only [kernel_collide_apply, if_pos h]
    exact kernel_collide.mass_site ⟨sqrt, philox_double2, _data_force, _data_pdfs,
      block_offset_0, block_offset_1, block_offset_2,
      kT, omega_bulk, omega_even, omega_odd, omega_shear, seed, time_step, x, y, z⟩
  · intro h
    simp only [kernel_streamCollide_apply, if_pos h, kernel_streamCollide.values_pull,
      ← kernel_stream.values_eq]
    exact kernel_collide.mass_site (pulled ⟨sqrt, philox_double2, _data_force, _data_pdfs,
      block_offset_0, block_offset_1, block_offset_2,
      kT, omega_bulk, omega_even, omega_odd, omega_shear, seed, time_step, x, y, z⟩)

open FluctuatingMRTLatticeModel in
theorem mass_conservation_witness :
    (((0 : Int) ≤ 1 ∧ (1 : Int) < 3) ∧ ((0 : Int) ≤ 1 ∧ (1 : Int) < 3)
        ∧ ((0 : Int) ≤ 1 ∧ (1 : Int) < 3) →
      ∑ q, kernel_collide Example.sqrt0 Example.philoxA Example.forceY Example.pdfsC 3 3 3 0 0 0
          1 1 1 1 1 0 0 1 1 1 q
        = ∑ q, Example.pdfsC 1 1 1 q) ∧
    (((1 : Int) ≤ 1 ∧ (1 : Int) < 3 - 1) ∧ ((1 : Int) ≤ 1 ∧ (1 : Int) < 3 - 1)
        ∧ ((1 : Int) ≤ 1 ∧ (1 : Int) < 3 - 1) →
      ∑ q, kernel_streamCollide Example.sqrt0 Example.philoxA Example.forceY Example.pdfsC
          Example.pdfs0 3 3 3 0 0 0 1 1 1 1 1 0 0 1 1 1 q
        = ∑ q, Example.pdfsC (1 - cx q) (1 - cy q) (1 - cz q) q) :=
  mass_conservation Example.sqrt0 Example.philoxA Example.forceY Example.pdfsC Example.pdfs0
    3 3 3 0 0 0 1 1 1 1 1 0 0 1 1 1

open FluctuatingMRTLatticeModel in
/-- C2 (momentum).  For every input and each axis `a` the populations written by
`kernel_collide` at a cell of the box satisfy
`sum_q c_qa f'_q = sum_q c_qa f_q + F_a`: momentum is neither relaxed nor noised and receives
the full force. -/
theorem momentum_receives_full_force [CharZero K] (sqrt : K → K) (philox_double2 : Philox K)
    (_data_force : ForceField K) (_data_pdfs : PdfField K)
    (_size_force_0 _size_force_1 _size_force_2 : Int)
    (block_offset_0 block_offset_1 block_offset_2 : Nat)
    (kT omega_bulk omega_even omega_odd omega_shear : K) (seed time_step : Nat) (x y z : Int)
    (h : (0 ≤ x ∧ x < _size_force_0) ∧ (0 ≤ y ∧ y < _size_force_1) ∧ (0 ≤ z ∧ z < _size_force_2))
    (a : Fin 3) :
    ∑ q, (cvec q a : K) * kernel_collide sqrt philox_double2 _data_force _data_pdfs
        _size_force_0 _size_force_1 _size_force_2 block_offset_0 block_offset_1 block_offset_2
        kT omega_bulk omega_even omega_odd omega_shear seed time_step x y z q
      = ∑ q, (cvec q a : K) * _data_pdfs x y z q + _data_force x y z a := by
  simp only [kernel_collide_apply, if_pos h]
  revert a
  rw [forall_fin3]
  exact ⟨kernel_collide.momentum_site_x ⟨sqrt, philox_double2, _data_force, _data_pdfs,
      block_offset_0, block_offset_1, block_offset_2,
      kT, omega_bulk, omega_even, omega_odd, omega_shear, seed, time_step, x, y, z⟩,
    kernel_collide.momentum_site_y ⟨sqrt, philox_double2, _data_force, _data_pdfs,
      block_offset_0, block_offset_1, block_offset_2,
      kT, omega_bulk, omega_even, omega_odd, omega_shear, seed, time_step, x, y, z⟩,
    kernel_collide.momentum_site_z ⟨sqrt, philox_double2, _data_force, _data_pdfs,
      block_offset_0, block_offset_1, block_offset_2,
      kT, omega_bulk, omega_even, omega_odd, omega_shear, seed, time_step, x, y, z⟩⟩

open FluctuatingMRTLatticeModel in
theorem momentum_receives_full_force_witness :
    (((0 : Int) ≤ 1 ∧ (1 : Int) < 3) ∧ ((0 : Int) ≤ 1 ∧ (1 : Int) < 3)
        ∧ ((0 : Int) ≤ 1 ∧ (1 : Int) < 3)) ∧
    ∑ q, (cvec q 1 : ℚ) * kernel_collide Example.sqrt0 Example.philoxA Example.forceY
        Example.pdfsC 3 3 3 0 0 0 1 1 1 1 1 0 0 1 1 1 q
      = ∑ q, (cvec q 1 : ℚ) * Example.pdfsC 1 1 1 q + Example.forceY 1 1 1 1 :=
  ⟨by decide, momentum_receives_full_force Example.sqrt0 Example.philoxA Example.forceY
    Example.pdfsC 3 3 3 0 0 0 1 1 1 1 1 0 0 1 1 1 (by decide) 1⟩


open FluctuatingMRTLatticeModel in
/-- C3 (zero-temperature determinism).  With `kT = 0` (and `sqrt 0 = 0`) the four noise
amplitudes computed by the loop bodies (even `xi_102`, bulk, odd `xi_136`, shear `xi_152`) are
exactly zero, and two runs of `kernel_collide`, or of `kernel_streamCollide`, on the same
populations, force and relaxation rates that differ in the generator, the seed, the time step
or the block offsets write identical fields. -/
theorem zero_temperature_determinism (sqrt : K → K) (hsqrt : sqrt 0 = 0)
    (philox_double2 philox_double2' : Philox K)
    (_data_force : ForceField K) (_data_pdfs _data_pdfs_tmp : PdfField K)
    (_size_force_0 _size_force_1 _size_force_2 : Int)
    (block_offset_0 block_offset_1 block_offset_2 : Nat)
    (block_offset_0' block_offset_1' block_offset_2' : Nat)
    (omega_bulk omega_even omega_odd omega_shear : K) (seed time_step seed' time_step' : Nat) :
    (∀ s : Site K, s.sqrt = sqrt → s.kT = 0 →
      (kernel_collide.xi_102 s = 0
        ∧ s.sqrt (kernel_collide.xi_101 s
            * (-((kernel_collide.xi_40 s + 1) * (kernel_collide.xi_40 s + 1)) + 1)) = 0
        ∧ kernel_collide.xi_136 s = 0 ∧ kernel_collide.xi_152 s = 0)
      ∧ (kernel_streamCollide.xi_102 s = 0
        ∧ s.sqrt (kernel_streamCollide.xi_101 s
            * (-((kernel_streamCollide.xi_40 s + 1) * (kernel_streamCollide.xi_40 s + 1)) + 1)) = 0
        ∧ kernel_streamCollide.xi_136 s = 0 ∧ kernel_streamCollide.xi_152 s = 0)) ∧
    kernel_collide sqrt philox_double2 _data_force _data_pdfs
        _size_force_0 _size_force_1 _size_force_2 block_offset_0 block_offset_1 block_offset_2
        0 omega_bulk omega_even omega_odd omega_shear seed time_step
      = kernel_collide sqrt philox_double2' _data_force _data_pdfs
        _size_force_0 _size_force_1 _size_force_2 block_offset_0' block_offset_1' block_offset_2'
        0 omega_bulk omega_even omega_odd omega_shear seed' time_step' ∧
    kernel_streamCollide sqrt philox_double2 _data_force _data_pdfs _data_pdfs_tmp
        _size_force_0 _size_force_1 _size_force_2 block_offset_0 block_offset_1 block_offset_2
        0 omega_bulk omega_even omega_odd omega_shear seed time_step
      = kernel_streamCollide sqrt philox_double2' _data_force _data_pdfs _data_pdfs_tmp
        _size_force_0 _size_force_1 _size_force_2 block_offset_0' block_offset_1' block_offset_2'
        0 omega_bulk omega_even omega_odd omega_shear seed' time_step' := by
  refine ⟨?_, ?_, ?_⟩
  · intro s hs hkT
    have hsq : s.sqrt 0 = 0 := hs ▸ hsqrt
    exact ⟨kernel_collide.amplitudes_zero s hkT hsq, kernel_streamCollide.amplitudes_zero_fused s hkT hsq⟩
  · funext x y z q
    rw [kernel_collide_apply, kernel_collide_apply]
    split
    · exact congrFun (kernel_collide.values_eq_of_kT_zero
        ⟨sqrt, philox_double2, _data_force, _data_pdfs, block_offset_0, block_offset_1,
          block_offset_2, 0, omega_bulk, omega_even, omega_odd, omega_shear, seed, time_step,
          x, y, z⟩
        ⟨sqrt, philox_double2', _data_force, _data_pdfs, block_offset_0', block_offset_1',
          block_offset_2', 0, omega_bulk, omega_even, omega_odd, omega_shear, seed', time_step',
          x, y, z⟩
        rfl rfl hsqrt rfl rfl rfl rfl rfl (fun _ => rfl) (fun _ => rfl)) q
    · rfl
  · funext x y z q
    rw [kernel_streamCollide_apply, kernel_streamCollide_apply]
    split
    · exact congrFun (kernel_streamCollide.values_eq_of_kT_zero_fused
        ⟨sqrt, philox_double2, _data_force, _data_pdfs, block_offset_0, block_offset_1,
          block_offset_2, 0, omega_bulk, omega_even, omega_odd, omega_shear, seed, time_step,
          x, y, z⟩
        ⟨sqrt, philox_double2', _data_force, _data_pdfs, block_offset_0', block_offset_1',
          block_offset_2', 0, omega_bulk, omega_even, omega_odd, omega_shear, seed', time_step',
          x, y, z⟩
        rfl rfl hsqrt rfl rfl rfl rfl rfl (fun _ => rfl) (fun _ => rfl)) q
    · rfl

open FluctuatingMRTLatticeModel in
theorem zero_temperature_determinism_witness :
    Example.sqrt0 0 = 0 ∧
    kernel_collide Example.sqrt0 Example.philoxA Example.forceY Example.pdfsC 3 3 3 0 0 0
        0 1 1 1 1 0 0
      = kernel_collide Example.sqrt0 Example.philoxB Example.forceY Example.pdfsC 3 3 3 4 5 6
        0 1 1 1 1 7 8 :=
  ⟨rfl, (zero_temperature_determinism Example.sqrt0 rfl Example.philoxA Example.philoxB
    Example.forceY Example.pdfsC Example.pdfs0 3 3 3 0 0 0 4 5 6 1 1 1 1 0 0 7 8).2.1⟩

open FluctuatingMRTLatticeModel in
/-- C4 (round-trip identity).  With the four relaxation rates zero, `kT = 0` and no force at
the cell, `kernel_collide` (forward moment transform, relaxation, backward transform) leaves
the nineteen populations of the cell as they were, for every population field. -/
theorem round_trip_identity [CharZero K] (sqrt : K → K) (hsqrt : sqrt 0 = 0)
    (philox_double2 : Philox K) (_data_force : ForceField K) (_data_pdfs : PdfField K)
    (_size_force_0 _size_force_1 _size_force_2 : Int)
    (block_offset_0 block_offset_1 block_offset_2 : Nat) (seed time_step : Nat) (x y z : Int)
    (hF : ∀ a, _data_force x y z a = 0) (q : Fin 19) :
    kernel_collide sqrt philox_double2 _data_force _data_pdfs
        _size_force_0 _size_force_1 _size_force_2 block_offset_0 block_offset_1 block_offset_2
        0 0 0 0 0 seed time_step x y z q
      = _data_pdfs x y z q := by
  rw [kernel_collide_apply]
  split
  · exact kernel_collide.round_trip_site
      ⟨sqrt, philox_double2, _data_force, _data_pdfs, block_offset_0, block_offset_1,
        block_offset_2, 0, 0, 0, 0, 0, seed, time_step, x, y, z⟩
      rfl hsqrt rfl rfl rfl rfl hF q
  · rfl

open FluctuatingMRTLatticeModel in
theorem round_trip_identity_witness :
    (Example.sqrt0 0 = 0 ∧ ∀ a, Example.force0 1 1 1 a = 0) ∧
    kernel_collide Example.sqrt0 Example.philoxA Example.force0 Example.pdfsC 3 3 3 0 0 0
        0 0 0 0 0 0 0 1 1 1 0
      = Example.pdfsC 1 1 1 0 :=
  ⟨⟨rfl, fun _ => rfl⟩, round_trip_identity Example.sqrt0 rfl Example.philoxA Example.force0
    Example.pdfsC 3 3 3 0 0 0 0 0 1 1 1 (fun _ => rfl) 0⟩

open FluctuatingMRTLatticeModel in
/-- C6 (streaming contract).  For every interior cell `(x, y, z)` (index between 1 and
size - 2 in each dimension) and every slot `q`, `kernel_stream` writes
`dst[x, y, z][q] = src[(x, y, z) - c_q][q]`, a plain copy along the velocity `c_q`; in
particular the rest population stays at its cell. -/
theorem streaming_contract {V : Type} [Field V] (_data_pdfs _data_pdfs_tmp : PdfField V)
    (_size_pdfs_0 _size_pdfs_1 _size_pdfs_2 : Int) (x y z : Int)
    (h : (1 ≤ x ∧ x ≤ _size_pdfs_0 - 2) ∧ (1 ≤ y ∧ y ≤ _size_pdfs_1 - 2)
      ∧ (1 ≤ z ∧ z ≤ _size_pdfs_2 - 2)) :
    (∀ q, kernel_stream _data_pdfs _data_pdfs_tmp _size_pdfs_0 _size_pdfs_1 _size_pdfs_2 x y z q
        = _data_pdfs (x - cx q) (y - cy q) (z - cz q) q) ∧
    kernel_stream _data_pdfs _data_pdfs_tmp _size_pdfs_0 _size_pdfs_1 _size_pdfs_2 x y z 0
        = _data_pdfs x y z 0 := by
  have h' : (1 ≤ x ∧ x < _size_pdfs_0 - 1) ∧ (1 ≤ y ∧ y < _size_pdfs_1 - 1)
      ∧ (1 ≤ z ∧ z < _size_pdfs_2 - 1) := by omega
  refine ⟨fun q => ?_, ?_⟩
  · rw [kernel_stream_apply, if_pos h', kernel_stream.values_eq]
  · rw [kernel_stream_apply, if_pos h']
    rfl

open FluctuatingMRTLatticeModel in
theorem streaming_contract_witness :
    (((1 : Int) ≤ 1 ∧ (1 : Int) ≤ 3 - 2) ∧ ((1 : Int) ≤ 1 ∧ (1 : Int) ≤ 3 - 2)
      ∧ ((1 : Int) ≤ 1 ∧ (1 : Int) ≤ 3 - 2)) ∧
    ((∀ q, kernel_stream Example.pdfsC Example.pdfs0 3 3 3 1 1 1 q
        = Example.pdfsC (1 - cx q) (1 - cy q) (1 - cz q) q) ∧
    kernel_stream Example.pdfsC Example.pdfs0 3 3 3 1 1 1 0 = Example.pdfsC 1 1 1 0) :=
  ⟨by decide, streaming_contract Example.pdfsC Example.pdfs0 3 3 3 1 1 1 (by decide)⟩



open FluctuatingMRTLatticeModel in
/-- C5 (rest state is a fixed point).  Let every cell hold the rest equilibrium
`f_q = w q * rho0` with `rho0` not zero, the force be zero and `kT = 0` (with `sqrt 0 = 0`).
Then for every choice of the four relaxation rates (1) `kernel_streamCollide` writes
`w q * rho0` at every cell it updates, (2) so does `kernel_collide` run on the output of
`kernel_stream`, and (3) on the periodic one-block lattice, after any number of time steps,
every owned cell still holds `w q * rho0`, its density is `rho0` and its momentum, hence its
velocity, is zero. -/
theorem rest_state_fixed_point [CharZero K] (sqrt : K → K) (hsqrt : sqrt 0 = 0)
    (philox_double2 : Philox K) (rho0 : K) (hrho : rho0 ≠ 0) :
    (∀ (_data_force : ForceField K) (_data_pdfs _data_pdfs_tmp : PdfField K)
        (_size_force_0 _size_force_1 _size_force_2 : Int)
        (block_offset_0 block_offset_1 block_offset_2 : Nat)
        (omega_bulk omega_even omega_odd omega_shear : K) (seed time_step : Nat),
      (∀ x y z a, _data_force x y z a = 0) → (∀ x y z q, _data_pdfs x y z q = w q * rho0) →
      ∀ (x y z : Int) (q : Fin 19),
        (1 ≤ x ∧ x < _size_force_0 - 1) ∧ (1 ≤ y ∧ y < _size_force_1 - 1)
          ∧ (1 ≤ z ∧ z < _size_force_2 - 1) →
        kernel_streamCollide sqrt philox_double2 _data_force _data_pdfs _data_pdfs_tmp
          _size_force_0 _size_force_1 _size_force_2 block_offset_0 block_offset_1 block_offset_2
          0 omega_bulk omega_even omega_odd omega_shear seed time_step x y z q = w q * rho0) ∧
    (∀ (_data_force : ForceField K) (_data_pdfs _data_pdfs_tmp : PdfField K)
        (_size_force_0 _size_force_1 _size_force_2 : Int)
        (block_offset_0 block_offset_1 block_offset_2 : Nat)
        (omega_bulk omega_even omega_odd omega_shear : K) (seed time_step : Nat),
      (∀ x y z a, _data_force x y z a = 0) → (∀ x y z q, _data_pdfs x y z q = w q * rho0) →
      ∀ (x y z : Int) (q : Fin 19),
        (1 ≤ x ∧ x < _size_force_0 - 1) ∧ (1 ≤ y ∧ y < _size_force_1 - 1)
          ∧ (1 ≤ z ∧ z < _size_force_2 - 1) →
        kernel_collide sqrt philox_double2 _data_force
          (kernel_stream _data_pdfs _data_pdfs_tmp _size_force_0 _size_force_1 _size_force_2)
          _size_force_0 _size_force_1 _size_force_2 block_offset_0 block_offset_1 block_offset_2
          0 omega_bulk omega_even omega_odd omega_shear seed time_step x y z q = w q * rho0) ∧
    (∀ (block : Block K) (n : Nat), block.lm.kT_ = 0 → 1 ≤ block.pdfs.nrOfGhostLayers →
      block.lm.force_.xSize = block.pdfs.xSize → block.lm.force_.ySize = block.pdfs.ySize →
      block.lm.force_.zSize = block.pdfs.zSize →
      (∀ (x y z : Int) a, (0 ≤ x ∧ x < block.pdfs.xSize) ∧ (0 ≤ y ∧ y < block.pdfs.ySize)
        ∧ (0 ≤ z ∧ z < block.pdfs.zSize) → block.lm.force_.data x y z a = 0) →
      (∀ (x y z : Int) q, (0 ≤ x ∧ x < block.pdfs.xSize) ∧ (0 ≤ y ∧ y < block.pdfs.ySize)
        ∧ (0 ≤ z ∧ z < block.pdfs.zSize) → block.pdfs.data x y z q = w q * rho0) →
      ∀ (x y z : Int), (0 ≤ x ∧ x < block.pdfs.xSize) ∧ (0 ≤ y ∧ y < block.pdfs.ySize)
        ∧ (0 ≤ z ∧ z < block.pdfs.zSize) →
        (∀ q, (periodicSteps sqrt philox_double2 n block).pdfs.data x y z q = w q * rho0)
        ∧ ∑ q, (periodicSteps sqrt philox_double2 n block).pdfs.data x y z q = rho0
        ∧ ∀ a, ∑ q, (cvec q a : K)
            * (periodicSteps sqrt philox_double2 n block).pdfs.data x y z q = 0) := by
  refine ⟨?_, ?_, ?_⟩
  · intro _data_force _data_pdfs _data_pdfs_tmp n0 n1 n2 b0 b1 b2 ob oe oo os seed ts hF hf
      x y z q h
    rw [kernel_streamCollide_apply, if_pos h]
    refine kernel_streamCollide.rest_site_fused _ rho0 rfl hsqrt (fun a => hF _ _ _ a) ?_ q
    intro q'
    rw [kernel_stream.values_eq]
    exact hf _ _ _ q'
  · intro _data_force _data_pdfs _data_pdfs_tmp n0 n1 n2 b0 b1 b2 ob oe oo os seed ts hF hf
      x y z q h
    rw [kernel_collide_apply, if_pos (by omega)]
    refine kernel_collide.rest_site _ rho0 rfl hsqrt (fun a => hF _ _ _ a) ?_ q
    intro q'
    show kernel_stream _ _ _ _ _ x y z q' = _
    rw [kernel_stream_apply, if_pos h, kernel_stream.values_eq]
    exact hf _ _ _ q'
  · intro block n hkT hgl hx hy hz hF hrest x y z h
    have hstay := (periodicSteps_rest sqrt hsqrt philox_double2 block rho0 hkT hgl hx hy hz hF
      hrest n).1 x y z
    have hall : ∀ q, (periodicSteps sqrt philox_double2 n block).pdfs.data x y z q
        = w q * rho0 := fun q => hstay q h
    exact ⟨hall, rest_moments _ rho0 hall⟩

open FluctuatingMRTLatticeModel in
theorem rest_state_fixed_point_witness :
    (Example.sqrt0 0 = 0 ∧ (1 : ℚ) ≠ 0) ∧
    ((∀ q, (periodicSteps Example.sqrt0 Example.philoxA 3 Example.blockRest).pdfs.data 1 0 1 q
        = w q * 1)
      ∧ ∑ q, (periodicSteps Example.sqrt0 Example.philoxA 3 Example.blockRest).pdfs.data 1 0 1 q
        = 1
      ∧ ∀ a, ∑ q, (cvec q a : ℚ)
          * (periodicSteps Example.sqrt0 Example.philoxA 3 Example.blockRest).pdfs.data 1 0 1 q
        = 0) :=
  ⟨⟨rfl, one_ne_zero⟩,
    (rest_state_fixed_point Example.sqrt0 rfl Example.philoxA 1 one_ne_zero).2.2
      Example.blockRest 3 rfl (le_refl 1) rfl rfl rfl (fun _ _ _ _ _ => rfl)
      (fun _ _ _ _ _ => rfl) 1 0 1 (by decide)⟩


open FluctuatingMRTLatticeModel in
/-- C7, counterexample.  On a block of one owned cell whose cells hold a rest population 1,
with force density `(0, 6, 0)` at the owned cell only, all relaxation rates zero and `kT = 0`,
`Sweep::collide` (over the owned cell, or over the owned cell and one ghost layer) followed by
`Sweep::stream` leaves 0 in slot 1 of the owned cell, whereas `Sweep::streamCollide` leaves 1
there: the fused pass streams first and collides afterwards. -/
theorem collide_then_stream_counterexample :
    ((Sweep.stream (Sweep.collide Example.sqrt0 Example.philoxA Example.blockY 0) 0).pdfs.data
        0 0 0 1 = 0
      ∧ (Sweep.stream (Sweep.collide Example.sqrt0 Example.philoxA Example.blockY 1) 0).pdfs.data
        0 0 0 1 = 0
      ∧ (Sweep.streamCollide Example.sqrt0 Example.philoxA Example.blockY 0).pdfs.data
        0 0 0 1 = 1)
    ∧ (Sweep.stream (Sweep.collide Example.sqrt0 Example.philoxA Example.blockY 0) 0).pdfs.data
        0 0 0 1
      ≠ (Sweep.streamCollide Example.sqrt0 Example.philoxA Example.blockY 0).pdfs.data 0 0 0 1
    ∧ (Sweep.stream (Sweep.collide Example.sqrt0 Example.philoxA Example.blockY 1) 0).pdfs.data
        0 0 0 1
      ≠ (Sweep.streamCollide Example.sqrt0 Example.philoxA Example.blockY 0).pdfs.data
        0 0 0 1 := by
  have e0 : (Sweep.stream (Sweep.collide Example.sqrt0 Example.philoxA Example.blockY 0)
      0).pdfs.data 0 0 0 1 = 0 := by
    rw [Sweep.stream_data _ 0 0 0 0 1 (by decide), Sweep.collide_data, if_neg (by decide)]
    rfl
  have e1 : (Sweep.stream (Sweep.collide Example.sqrt0 Example.philoxA Example.blockY 1)
      0).pdfs.data 0 0 0 1 = 0 := by
    rw [Sweep.stream_data _ 0 0 0 0 1 (by decide), Sweep.collide_data, if_pos (by decide),
      kernel_collide.forced_site _ 1 rfl rfl rfl rfl rfl rfl (fun q => rfl)]
    norm_num [Example.blockY, Example.forceP, GhostLayerField.dataAt, cy, cx, cz]
  have e2 : (Sweep.streamCollide Example.sqrt0 Example.philoxA Example.blockY 0).pdfs.data
      0 0 0 1 = 1 := by
    rw [Sweep.streamCollide_data _ _ _ 0 0 0 0 1 (by decide), kernel_streamCollide.values_pull,
      kernel_collide.forced_site _ 1 rfl rfl rfl rfl rfl rfl (fun q => by
        show kernel_stream.values _ _ _ _ q = _
        rw [kernel_stream.values_eq]
        rfl)]
    norm_num [Example.blockY, Example.forceP, GhostLayerField.dataAt, pulled]
  refine ⟨⟨e0, e1, e2⟩, ?_, ?_⟩
  · rw [e0, e2]
    exact zero_ne_one
  · rw [e1, e2]
    exact zero_ne_one

open FluctuatingMRTLatticeModel in
/-- C7, as amended (stream-then-collide equals stream-collide).  For every populations, force
field (of the size of the population field), relaxation rates, seed and time step, running
`Sweep::stream` and then `Sweep::collide` leaves at every cell of the swept region the
populations `Sweep::streamCollide` leaves there, (1) on the same inputs when `kT = 0` (with
`sqrt 0 = 0`), and (2) for every `kT` when `Sweep::collide` is given block offsets one larger
(modulo `2^32`) in each coordinate, its cell counters being one smaller than those of the
fused pass. -/
theorem stream_then_collide_eq_streamCollide (sqrt : K → K) (philox_double2 : Philox K)
    (block : Block K) (g : Nat)
    (hx : block.lm.force_.xSize = block.pdfs.xSize)
    (hy : block.lm.force_.ySize = block.pdfs.ySize)
    (hz : block.lm.force_.zSize = block.pdfs.zSize) (x y z : Int)
    (h : (-(g : Int) ≤ x ∧ x < block.pdfs.xSize + g)
      ∧ (-(g : Int) ≤ y ∧ y < block.pdfs.ySize + g)
      ∧ (-(g : Int) ≤ z ∧ z < block.pdfs.zSize + g)) (q : Fin 19) :
    (block.lm.kT_ = 0 → sqrt 0 = 0 →
      (Sweep.collide sqrt philox_double2 (Sweep.stream block g) g).pdfs.data x y z q
        = (Sweep.streamCollide sqrt philox_double2 block g).pdfs.data x y z q) ∧
    (Sweep.collide sqrt philox_double2
        ⟨(Sweep.stream block g).pdfs, (Sweep.stream block g).pdfs_tmp,
          ⟨block.lm.force_, block.lm.omega_even_, block.lm.omega_odd_,
            (block.lm.block_offset_2_ + 1) % 4294967296,
            (block.lm.block_offset_0_ + 1) % 4294967296, block.lm.omega_shear_,
            (block.lm.block_offset_1_ + 1) % 4294967296, block.lm.omega_bulk_, block.lm.seed_,
            block.lm.kT_, block.lm.time_step_⟩⟩ g).pdfs.data x y z q
      = (Sweep.streamCollide sqrt philox_double2 block g).pdfs.data x y z q := by
  have hreg : (-(g : Int) ≤ x ∧ x < block.lm.force_.xSize + g)
      ∧ (-(g : Int) ≤ y ∧ y < block.lm.force_.ySize + g)
      ∧ (-(g : Int) ≤ z ∧ z < block.lm.force_.zSize + g) := by
    rw [hx, hy, hz]
    exact h
  refine ⟨fun hkT hsqrt => ?_, ?_⟩
  · rw [Sweep.streamCollide_data _ _ _ _ _ _ _ _ hreg, kernel_streamCollide.values_pull]
    refine (Sweep.collide_stream_data sqrt philox_double2 block.pdfs block.pdfs_tmp block.lm
      block.lm g x y z q rfl hx hy hz h).trans ?_
    refine congrFun (kernel_collide.values_eq_of_kT_zero _ _ ?_ ?_ ?_ ?_ ?_ ?_ ?_ ?_
      ?h_pdfs ?h_force) q
    case h_pdfs =>
      exact (Sweep.fused_reads sqrt philox_double2 philox_double2 block.pdfs block.lm.force_
        _ _ _ _ _ _ _ _ _ _ _ _ _ _ _ _ g x y z).1
    case h_force =>
      exact (Sweep.fused_reads sqrt philox_double2 philox_double2 block.pdfs block.lm.force_
        0 0 0 0 0 0 0 0 0 0 0 0 0 0 0 0 g x y z).2
    all_goals first | exact hkT | exact hsqrt | rfl
  · rw [Sweep.streamCollide_data _ _ _ _ _ _ _ _ hreg, kernel_streamCollide.values_pull]
    refine (Sweep.collide_stream_data sqrt philox_double2 block.pdfs block.pdfs_tmp block.lm
      ⟨block.lm.force_, block.lm.omega_even_, block.lm.omega_odd_,
        (block.lm.block_offset_2_ + 1) % 4294967296,
        (block.lm.block_offset_0_ + 1) % 4294967296, block.lm.omega_shear_,
        (block.lm.block_offset_1_ + 1) % 4294967296, block.lm.omega_bulk_, block.lm.seed_,
        block.lm.kT_, block.lm.time_step_⟩ g x y z q rfl hx hy hz h).trans ?_
    refine congrFun (kernel_collide.values_eq_of_reads _ _ ?_ ?_ ?_ ?_ ?_ ?_ ?h_pdfs ?h_force
      ?_ ?_ ?_ ?_ ?_ ?_ ?_ ?_) q
    case h_pdfs =>
      exact (Sweep.fused_reads sqrt philox_double2 philox_double2 block.pdfs block.lm.force_
        _ _ _ _ _ _ _ _ _ _ _ _ _ _ _ _ g x y z).1
    case h_force =>
      exact (Sweep.fused_reads sqrt philox_double2 philox_double2 block.pdfs block.lm.force_
        0 0 0 0 0 0 0 0 0 0 0 0 0 0 0 0 g x y z).2
    all_goals first
      | rfl
      | simp only [kernel_collide.random_0, kernel_collide.random_1, kernel_collide.random_2,
          kernel_collide.random_3, kernel_collide.random_4, kernel_collide.random_5,
          kernel_collide.random_6, kernel_collide.random_7, pulled, u32_shift]

open FluctuatingMRTLatticeModel in
theorem stream_then_collide_eq_streamCollide_witness :
    (Example.blockY.lm.force_.xSize = Example.blockY.pdfs.xSize
      ∧ Example.blockY.lm.force_.ySize = Example.blockY.pdfs.ySize
      ∧ Example.blockY.lm.force_.zSize = Example.blockY.pdfs.zSize
      ∧ ((-((0 : Nat) : Int) ≤ 0 ∧ (0 : Int) < Example.blockY.pdfs.xSize + (0 : Nat))
        ∧ (-((0 : Nat) : Int) ≤ 0 ∧ (0 : Int) < Example.blockY.pdfs.ySize + (0 : Nat))
        ∧ (-((0 : Nat) : Int) ≤ 0 ∧ (0 : Int) < Example.blockY.pdfs.zSize + (0 : Nat)))
      ∧ Example.blockY.lm.kT_ = 0 ∧ Example.sqrt0 0 = 0) ∧
    (Sweep.collide Example.sqrt0 Example.philoxA (Sweep.stream Example.blockY 0) 0).pdfs.data
        0 0 0 1
      = (Sweep.streamCollide Example.sqrt0 Example.philoxA Example.blockY 0).pdfs.data 0 0 0 1 :=
  ⟨⟨rfl, rfl, rfl, by decide, rfl, rfl⟩,
    (stream_then_collide_eq_streamCollide Example.sqrt0 Example.philoxA Example.blockY 0
      rfl rfl rfl 0 0 0 (by decide) 1).1 rfl rfl⟩


/-- C8, counterexample.  With x-extent 1 the vectorised `kernel_collide` runs one iteration
of four lanes and also rewrites the cells `x = 1, 2, 3`: at the cell `(1, 0, 0)` it leaves 1 in
slot 1 where the scalar kernel leaves the 0 that was there.  Likewise with extent 3 the
vectorised `kernel_streamCollide` writes the cell `(2, 1, 1)` of the destination, which the
scalar kernel leaves alone. -/
theorem avx_collision_counterexample :
    (FluctuatingMRTLatticeModelAvx.kernel_collide Example.sqrt0 Example.philoxA Example.forceY
        Example.pdfsC 1 1 1 0 0 0 0 0 0 0 0 0 0 1 0 0 1
      ≠ FluctuatingMRTLatticeModel.kernel_collide Example.sqrt0 Example.philoxA Example.forceY
        Example.pdfsC 1 1 1 0 0 0 0 0 0 0 0 0 0 1 0 0 1)
    ∧ (FluctuatingMRTLatticeModelAvx.kernel_streamCollide Example.sqrt0 Example.philoxA
        Example.forceY Example.pdfsC Example.pdfs0 3 3 3 0 0 0 0 0 0 0 0 0 0 2 1 1 1
      ≠ FluctuatingMRTLatticeModel.kernel_streamCollide Example.sqrt0 Example.philoxA
        Example.forceY Example.pdfsC Example.pdfs0 3 3 3 0 0 0 0 0 0 0 0 0 0 2 1 1 1) := by
  have a1 := FluctuatingMRTLatticeModelAvx.kernel_collide_apply_avx Example.sqrt0 Example.philoxA
    Example.forceY Example.pdfsC 1 1 1 0 0 0 0 0 0 0 0 0 0 (by decide) 1 0 0 1
  have a2 := FluctuatingMRTLatticeModel.kernel_collide_apply Example.sqrt0 Example.philoxA
    Example.forceY Example.pdfsC 1 1 1 0 0 0 0 0 0 0 0 0 0 1 0 0 1
  have b1 := FluctuatingMRTLatticeModelAvx.kernel_streamCollide_apply_avx Example.sqrt0
    Example.philoxA Example.forceY Example.pdfsC Example.pdfs0 3 3 3 0 0 0 0 0 0 0 0 0 0
    (by decide) 2 1 1 1
  have b2 := FluctuatingMRTLatticeModel.kernel_streamCollide_apply Example.sqrt0
    Example.philoxA Example.forceY Example.pdfsC Example.pdfs0 3 3 3 0 0 0 0 0 0 0 0 0 0
    2 1 1 1
  rw [if_pos (by decide),
    FluctuatingMRTLatticeModel.kernel_collide.forced_site _ 1 rfl rfl rfl rfl rfl rfl
      (fun q => rfl)] at a1
  rw [if_neg (by decide)] at a2
  rw [if_pos (by decide), FluctuatingMRTLatticeModel.kernel_streamCollide.values_pull,
    FluctuatingMRTLatticeModel.kernel_collide.forced_site _ 1 rfl rfl rfl rfl rfl rfl
      (fun q => by
        show FluctuatingMRTLatticeModel.kernel_stream.values _ _ _ _ q = _
        rw [FluctuatingMRTLatticeModel.kernel_stream.values_eq]
        rfl)] at b1
  rw [if_neg (by decide)] at b2
  rw [a1, a2, b1, b2]
  constructor <;> norm_num [Example.forceY, Example.pdfsC, Example.pdfs0, pulled]

/-- C8, as amended (scalar/vector equivalence of collision).  For every field contents,
force, rates, `kT`, seed and time step and every x-extent (at least 0 for `kernel_collide`, at
least 2 for `kernel_streamCollide`), divisible by 4 or not: the vectorised kernels leave the
scalar kernels' populations at every cell within the x-extent and at every cell beyond the
extent rounded up to the next multiple of 4 (1, 2); at the cells from the extent up to the
rounded extent they write the scalar formula of that cell as well (3, 4), where the scalar
kernels write nothing; and lane `j` of the iteration starting at `ctr_0` computes the scalar
formula for the cell `ctr_0 + j`, with generator x-counter `block_offset_0 + ctr_0 + j` (5). -/
theorem avx_collision_equivalence (sqrt : K → K) (philox_double2 : Philox K)
    (_data_force : ForceField K) (_data_pdfs _data_pdfs_tmp : PdfField K)
    (_size_force_0 _size_force_1 _size_force_2 : Int)
    (block_offset_0 block_offset_1 block_offset_2 : Nat)
    (kT omega_bulk omega_even omega_odd omega_shear : K) (seed time_step : Nat)
    (x y z : Int) (q : Fin 19) :
    (0 ≤ _size_force_0 → (x < _size_force_0 ∨ roundUp4 _size_force_0 ≤ x) →
      FluctuatingMRTLatticeModelAvx.kernel_collide sqrt philox_double2 _data_force _data_pdfs
          _size_force_0 _size_force_1 _size_force_2 block_offset_0 block_offset_1 block_offset_2
          kT omega_bulk omega_even omega_odd omega_shear seed time_step x y z q
        = FluctuatingMRTLatticeModel.kernel_collide sqrt philox_double2 _data_force _data_pdfs
          _size_force_0 _size_force_1 _size_force_2 block_offset_0 block_offset_1 block_offset_2
          kT omega_bulk omega_even omega_odd omega_shear seed time_step x y z q) ∧
    (2 ≤ _size_force_0 → (x < _size_force_0 - 1 ∨ roundUp4 (_size_force_0 - 2) + 1 ≤ x) →
      FluctuatingMRTLatticeModelAvx.kernel_streamCollide sqrt philox_double2 _data_force
          _data_pdfs _data_pdfs_tmp
          _size_force_0 _size_force_1 _size_force_2 block_offset_0 block_offset_1 block_offset_2
          kT omega_bulk omega_even omega_odd omega_shear seed time_step x y z q
        = FluctuatingMRTLatticeModel.kernel_streamCollide sqrt philox_double2 _data_force
          _data_pdfs _data_pdfs_tmp
          _size_force_0 _size_force_1 _size_force_2 block_offset_0 block_offset_1 block_offset_2
          kT omega_bulk omega_even omega_odd omega_shear seed time_step x y z q) ∧
    (0 ≤ _size_force_0 → (_size_force_0 ≤ x ∧ x < roundUp4 _size_force_0)
        ∧ (0 ≤ y ∧ y < _size_force_1) ∧ (0 ≤ z ∧ z < _size_force_2) →
      FluctuatingMRTLatticeModelAvx.kernel_collide sqrt philox_double2 _data_force _data_pdfs
          _size_force_0 _size_force_1 _size_force_2 block_offset_0 block_offset_1 block_offset_2
          kT omega_bulk omega_even omega_odd omega_shear seed time_step x y z q
        = FluctuatingMRTLatticeModel.kernel_collide.values ⟨sqrt, philox_double2, _data_force,
          _data_pdfs, block_offset_0, block_offset_1, block_offset_2,
          kT, omega_bulk, omega_even, omega_odd, omega_shear, seed, time_step, x, y, z⟩ q) ∧
    (2 ≤ _size_force_0 → (_size_force_0 - 1 ≤ x ∧ x < roundUp4 (_size_force_0 - 2) + 1)
        ∧ (1 ≤ y ∧ y < _size_force_1 - 1) ∧ (1 ≤ z ∧ z < _size_force_2 - 1) →
      FluctuatingMRTLatticeModelAvx.kernel_streamCollide sqrt philox_double2 _data_force
          _data_pdfs _data_pdfs_tmp
          _size_force_0 _size_force_1 _size_force_2 block_offset_0 block_offset_1 block_offset_2
          kT omega_bulk omega_even omega_odd omega_shear seed time_step x y z q
        = FluctuatingMRTLatticeModel.kernel_streamCollide.values ⟨sqrt, philox_double2,
          _data_force, _data_pdfs, block_offset_0, block_offset_1, block_offset_2,
          kT, omega_bulk, omega_even, omega_odd, omega_shear, seed, time_step, x, y, z⟩ q) ∧
    (∀ (s : Site K) (j : Fin 4),
      FluctuatingMRTLatticeModelAvx.kernel_collide.values s q j
        = FluctuatingMRTLatticeModel.kernel_collide.values (lane s j) q
      ∧ FluctuatingMRTLatticeModelAvx.kernel_streamCollide.values s q j
        = FluctuatingMRTLatticeModel.kernel_streamCollide.values (lane s j) q
      ∧ _mm256_add_epi32
          (_mm256_add_epi32
            (_mm256_set_epi32 s.block_offset_0 s.block_offset_0 s.block_offset_0
              s.block_offset_0 s.block_offset_0 s.block_offset_0 s.block_offset_0
              s.block_offset_0)
            (_mm256_set_epi32 7 6 5 4 3 2 1 0))
          (_mm256_set_epi32 s.ctr_0 s.ctr_0 s.ctr_0 s.ctr_0 s.ctr_0 s.ctr_0 s.ctr_0 s.ctr_0)
          (Fin.castLE (by decide) j)
        = u32 ((s.block_offset_0 : Int) + (s.ctr_0 + ((j : Nat) : Int)))) := by
  refine ⟨?_, ?_, ?_, ?_, ?_⟩
  · intro h0 hx
    obtain ⟨r1, r2, r3⟩ := roundUp4_spec _size_force_0 h0
    rw [FluctuatingMRTLatticeModelAvx.kernel_collide_apply_avx _ _ _ _ _ _ _ _ _ _ _ _ _ _ _ _ _ h0,
      FluctuatingMRTLatticeModel.kernel_collide_apply]
    by_cases hc : (0 ≤ x ∧ x < _size_force_0) ∧ (0 ≤ y ∧ y < _size_force_1)
        ∧ (0 ≤ z ∧ z < _size_force_2)
    · rw [if_pos hc, if_pos (by omega)]
    · rw [if_neg hc, if_neg (by omega)]
  · intro h0 hx
    obtain ⟨r1, r2, r3⟩ := roundUp4_spec (_size_force_0 - 2) (by omega)
    rw [FluctuatingMRTLatticeModelAvx.kernel_streamCollide_apply_avx _ _ _ _ _ _ _ _ _ _ _ _ _ _ _
        _ _ _ h0,
      FluctuatingMRTLatticeModel.kernel_streamCollide_apply]
    by_cases hc : (1 ≤ x ∧ x < _size_force_0 - 1) ∧ (1 ≤ y ∧ y < _size_force_1 - 1)
        ∧ (1 ≤ z ∧ z < _size_force_2 - 1)
    · rw [if_pos hc, if_pos (by omega)]
    · rw [if_neg hc, if_neg (by omega)]
  · intro h0 hx
    rw [FluctuatingMRTLatticeModelAvx.kernel_collide_apply_avx _ _ _ _ _ _ _ _ _ _ _ _ _ _ _ _ _ h0,
      if_pos (by omega)]
  · intro h0 hx
    rw [FluctuatingMRTLatticeModelAvx.kernel_streamCollide_apply_avx _ _ _ _ _ _ _ _ _ _ _ _ _ _ _
        _ _ _ h0, if_pos (by omega)]
  · intro s j
    exact ⟨FluctuatingMRTLatticeModelAvx.kernel_collide.values_lane s q j,
      FluctuatingMRTLatticeModelAvx.kernel_streamCollide.values_lane_fused s q j,
      lane_counter s.block_offset_0 s.ctr_0 j⟩

theorem avx_collision_equivalence_witness :
    ((0 : Int) ≤ 5 ∧ ((4 : Int) < 5 ∨ roundUp4 5 ≤ 4)) ∧
    FluctuatingMRTLatticeModelAvx.kernel_collide Example.sqrt0 Example.philoxA Example.forceY
        Example.pdfsC 5 3 3 0 0 0 1 1 1 1 1 0 0 4 1 1 7
      = FluctuatingMRTLatticeModel.kernel_collide Example.sqrt0 Example.philoxA Example.forceY
        Example.pdfsC 5 3 3 0 0 0 1 1 1 1 1 0 0 4 1 1 7 :=
  ⟨by decide, (avx_collision_equivalence Example.sqrt0 Example.philoxA Example.forceY
    Example.pdfsC Example.pdfs0 5 3 3 0 0 0 1 1 1 1 1 0 0 4 1 1 7).1 (by decide) (by decide)⟩

/-- C9, counterexample.  With x-extent 3 (one interior cell per row) the vectorised
`kernel_stream` writes the cells `x = 1, 2, 3, 4` of each interior row of the destination: at
the cell `(2, 1, 1)` it leaves the streamed 1 where the scalar kernel leaves the 0 that was
in the destination. -/
theorem avx_stream_counterexample :
    FluctuatingMRTLatticeModelAvx.kernel_stream Example.pdfs1 Example.pdfs0 3 3 3 2 1 1 0
      ≠ FluctuatingMRTLatticeModel.kernel_stream Example.pdfs1 Example.pdfs0 3 3 3 2 1 1 0 := by
  have a1 := FluctuatingMRTLatticeModelAvx.kernel_stream_apply_avx Example.pdfs1 Example.pdfs0
    3 3 3 (by decide) 2 1 1 0
  have a2 := FluctuatingMRTLatticeModel.kernel_stream_apply Example.pdfs1 Example.pdfs0
    3 3 3 2 1 1 0
  rw [if_pos (by decide), FluctuatingMRTLatticeModel.kernel_stream.values_eq] at a1
  rw [if_neg (by decide)] at a2
  rw [a1, a2]
  norm_num [Example.pdfs1, Example.pdfs0]

/-- C9, as amended (scalar/vector equivalence of streaming).  For every x-extent of at least
2, divisible by 4 or not, after the vectorised `kernel_stream` the destination equals the
destination after the scalar `kernel_stream`, run on the same source and the same initial
destination, at every cell within the x-extent and at every cell beyond the interior extent
rounded up to the next multiple of 4; at the cells in between the vectorised kernel has
written the streamed populations as well, where the scalar kernel writes nothing. -/
theorem avx_stream_equivalence {V : Type} [Field V] (_data_pdfs _data_pdfs_tmp : PdfField V)
    (_size_pdfs_0 _size_pdfs_1 _size_pdfs_2 : Int) (h0 : 2 ≤ _size_pdfs_0) (x y z : Int)
    (q : Fin 19) :
    ((x < _size_pdfs_0 - 1 ∨ roundUp4 (_size_pdfs_0 - 2) + 1 ≤ x) →
      FluctuatingMRTLatticeModelAvx.kernel_stream _data_pdfs _data_pdfs_tmp
          _size_pdfs_0 _size_pdfs_1 _size_pdfs_2 x y z q
        = FluctuatingMRTLatticeModel.kernel_stream _data_pdfs _data_pdfs_tmp
          _size_pdfs_0 _size_pdfs_1 _size_pdfs_2 x y z q) ∧
    ((_size_pdfs_0 - 1 ≤ x ∧ x < roundUp4 (_size_pdfs_0 - 2) + 1)
        ∧ (1 ≤ y ∧ y < _size_pdfs_1 - 1) ∧ (1 ≤ z ∧ z < _size_pdfs_2 - 1) →
      FluctuatingMRTLatticeModelAvx.kernel_stream _data_pdfs _data_pdfs_tmp
          _size_pdfs_0 _size_pdfs_1 _size_pdfs_2 x y z q
        = _data_pdfs (x - cx q) (y - cy q) (z - cz q) q) := by
  obtain ⟨r1, r2, r3⟩ := roundUp4_spec (_size_pdfs_0 - 2) (by omega)
  refine ⟨fun hx => ?_, fun hx => ?_⟩
  · rw [FluctuatingMRTLatticeModelAvx.kernel_stream_apply_avx _ _ _ _ _ h0,
      FluctuatingMRTLatticeModel.kernel_stream_apply]
    by_cases hc : (1 ≤ x ∧ x < _size_pdfs_0 - 1) ∧ (1 ≤ y ∧ y < _size_pdfs_1 - 1)
        ∧ (1 ≤ z ∧ z < _size_pdfs_2 - 1)
    · rw [if_pos hc, if_pos (by omega)]
    · rw [if_neg hc, if_neg (by omega)]
  · rw [FluctuatingMRTLatticeModelAvx.kernel_stream_apply_avx _ _ _ _ _ h0, if_pos (by omega),
      FluctuatingMRTLatticeModel.kernel_stream.values_eq]

theorem avx_stream_equivalence_witness :
    ((2 : Int) ≤ 7 ∧ ((5 : Int) < 7 - 1 ∨ roundUp4 (7 - 2) + 1 ≤ 5)) ∧
    FluctuatingMRTLatticeModelAvx.kernel_stream Example.pdfs1 Example.pdfs0 7 3 3 5 1 1 4
      = FluctuatingMRTLatticeModel.kernel_stream Example.pdfs1 Example.pdfs0 7 3 3 5 1 1 4 :=
  ⟨by decide, (avx_stream_equivalence Example.pdfs1 Example.pdfs0 7 3 3 (by decide) 5 1 1 4).1
    (by decide)⟩


open FluctuatingMRTLatticeModel in
/-- C10 (reproducibility under decomposition).  For mode index `k = 0, ..., 7` the loop bodies
of `kernel_collide` and `kernel_streamCollide` call the generator with the counters
`(time_step, block_offset_0 + ctr_0, block_offset_1 + ctr_1, block_offset_2 + ctr_2, k, seed)`,
the three sums reduced modulo `2^32`.  So two cell records with the same generator, seed and
time step whose sums agree modulo `2^32` in each coordinate receive the same eight pairs of
draws, and, when they also read the same populations, force, rates and `kT`, the loop body of
`kernel_collide` writes the same nineteen populations. -/
theorem reproducibility_under_decomposition (s s' : Site K) :
    (∀ k : Fin 8,
      kernel_collide.draws s k
        = s.philox_double2 s.time_step (u32 ((s.block_offset_0 : Int) + s.ctr_0))
            (u32 ((s.block_offset_1 : Int) + s.ctr_1))
            (u32 ((s.block_offset_2 : Int) + s.ctr_2)) k s.seed
      ∧ kernel_streamCollide.draws s k
        = s.philox_double2 s.time_step (u32 ((s.block_offset_0 : Int) + s.ctr_0))
            (u32 ((s.block_offset_1 : Int) + s.ctr_1))
            (u32 ((s.block_offset_2 : Int) + s.ctr_2)) k s.seed) ∧
    (s.philox_double2 = s'.philox_double2 → s.seed = s'.seed → s.time_step = s'.time_step →
      ((s.block_offset_0 : Int) + s.ctr_0) % 4294967296
        = ((s'.block_offset_0 : Int) + s'.ctr_0) % 4294967296 →
      ((s.block_offset_1 : Int) + s.ctr_1) % 4294967296
        = ((s'.block_offset_1 : Int) + s'.ctr_1) % 4294967296 →
      ((s.block_offset_2 : Int) + s.ctr_2) % 4294967296
        = ((s'.block_offset_2 : Int) + s'.ctr_2) % 4294967296 →
      (kernel_collide.draws s = kernel_collide.draws s'
        ∧ kernel_streamCollide.draws s = kernel_streamCollide.draws s')
      ∧ (s.sqrt = s'.sqrt → s.kT = s'.kT → s.omega_bulk = s'.omega_bulk →
          s.omega_even = s'.omega_even → s.omega_odd = s'.omega_odd →
          s.omega_shear = s'.omega_shear →
          (∀ q, s._data_pdfs s.ctr_0 s.ctr_1 s.ctr_2 q
            = s'._data_pdfs s'.ctr_0 s'.ctr_1 s'.ctr_2 q) →
          (∀ a, s._data_force s.ctr_0 s.ctr_1 s.ctr_2 a
            = s'._data_force s'.ctr_0 s'.ctr_1 s'.ctr_2 a) →
          kernel_collide.values s = kernel_collide.values s')) := by
  have hd : ∀ t : Site K, ∀ k : Fin 8,
      kernel_collide.draws t k
        = t.philox_double2 t.time_step (u32 ((t.block_offset_0 : Int) + t.ctr_0))
            (u32 ((t.block_offset_1 : Int) + t.ctr_1))
            (u32 ((t.block_offset_2 : Int) + t.ctr_2)) k t.seed
      ∧ kernel_streamCollide.draws t k
        = t.philox_double2 t.time_step (u32 ((t.block_offset_0 : Int) + t.ctr_0))
            (u32 ((t.block_offset_1 : Int) + t.ctr_1))
            (u32 ((t.block_offset_2 : Int) + t.ctr_2)) k t.seed := by
    intro t k
    fin_cases k <;> exact ⟨rfl, rfl⟩
  refine ⟨hd s, ?_⟩
  intro hp hseed hts h0 h1 h2
  have e0 : u32 ((s.block_offset_0 : Int) + s.ctr_0) = u32 ((s'.block_offset_0 : Int) + s'.ctr_0) :=
    by simp only [u32, h0]
  have e1 : u32 ((s.block_offset_1 : Int) + s.ctr_1) = u32 ((s'.block_offset_1 : Int) + s'.ctr_1) :=
    by simp only [u32, h1]
  have e2 : u32 ((s.block_offset_2 : Int) + s.ctr_2) = u32 ((s'.block_offset_2 : Int) + s'.ctr_2) :=
    by simp only [u32, h2]
  have hc : kernel_collide.draws s = kernel_collide.draws s' := by
    funext k
    rw [(hd s k).1, (hd s' k).1, hp, hseed, hts, e0, e1, e2]
  have hsc : kernel_streamCollide.draws s = kernel_streamCollide.draws s' := by
    funext k
    rw [(hd s k).2, (hd s' k).2, hp, hseed, hts, e0, e1, e2]
  refine ⟨⟨hc, hsc⟩, ?_⟩
  intro h_sqrt h_kT h_bulk h_even h_odd h_shear h_pdfs h_force
  exact kernel_collide.values_eq_of_reads s s' h_sqrt h_kT h_bulk h_even h_odd h_shear h_pdfs
    h_force (congrFun hc 0) (congrFun hc 1) (congrFun hc 2) (congrFun hc 3) (congrFun hc 4)
    (congrFun hc 5) (congrFun hc 6) (congrFun hc 7)

open FluctuatingMRTLatticeModel in
theorem reproducibility_under_decomposition_witness :
    (((Example.siteA.block_offset_0 : Int) + Example.siteA.ctr_0) % 4294967296
        = ((Example.siteB.block_offset_0 : Int) + Example.siteB.ctr_0) % 4294967296
      ∧ ((Example.siteA.block_offset_1 : Int) + Example.siteA.ctr_1) % 4294967296
        = ((Example.siteB.block_offset_1 : Int) + Example.siteB.ctr_1) % 4294967296
      ∧ ((Example.siteA.block_offset_2 : Int) + Example.siteA.ctr_2) % 4294967296
        = ((Example.siteB.block_offset_2 : Int) + Example.siteB.ctr_2) % 4294967296) ∧
    (kernel_collide.draws Example.siteA = kernel_collide.draws Example.siteB
      ∧ kernel_streamCollide.draws Example.siteA = kernel_streamCollide.draws Example.siteB) :=
  ⟨by decide,
    ((reproducibility_under_decomposition Example.siteA Example.siteB).2 rfl rfl rfl
      (by decide) (by decide) (by decide)).1⟩


open LBWalberlaD3Q19FluctuatingMRT in
/-- C11 (viscosity to shear rate).  For every viscosity `v` with `6 v + 1` not zero, both
`construct_lattice_model(v, kT, seed)` and `set_viscosity(v)` set the shear relaxation rate to
`omega_shear = 2 / (6 v + 1)`. -/
theorem viscosity_to_shear_rate {I T : Type} (LatticeModel : LatticeModelCtor K I)
    (hctor : LatticeModelCtor.StoresRates LatticeModel)
    (on_lattice_model_change : FluctuatingMRTLatticeModel.LatticeModel K → T → T)
    (self : LBWalberlaD3Q19FluctuatingMRT K I T) (viscosity kT : K) (seed : Nat)
    (hv : 6 * viscosity + 1 ≠ 0) :
    (construct_lattice_model LatticeModel self viscosity kT seed).m_lattice_model.omega_shear_
        = 2 / (6 * viscosity + 1)
    ∧ (set_viscosity on_lattice_model_change self viscosity).m_lattice_model.omega_shear_
        = 2 / (6 * viscosity + 1) :=
  ⟨(hctor _ _ _ _ _ _ _ _).2.2.2.2, rfl⟩

open LBWalberlaD3Q19FluctuatingMRT in
theorem viscosity_to_shear_rate_witness :
    (LatticeModelCtor.StoresRates Example.latticeModelCtor ∧ 6 * (1 / 6 : ℚ) + 1 ≠ 0) ∧
    ((construct_lattice_model Example.latticeModelCtor Example.lbY (1 / 6) 2
        7).m_lattice_model.omega_shear_ = 2 / (6 * (1 / 6) + 1)
      ∧ (set_viscosity (fun _ t => t) Example.lbY (1 / 6)).m_lattice_model.omega_shear_
        = 2 / (6 * (1 / 6) + 1)) :=
  ⟨⟨fun _ _ _ _ _ _ _ _ => ⟨rfl, rfl, rfl, rfl, rfl⟩, by norm_num⟩,
    viscosity_to_shear_rate Example.latticeModelCtor
      (fun _ _ _ _ _ _ _ _ => ⟨rfl, rfl, rfl, rfl, rfl⟩) (fun _ t => t) Example.lbY (1 / 6) 2 7
      (by norm_num)⟩

open LBWalberlaD3Q19FluctuatingMRT in
/-- C12 (viscosity round trip).  For every viscosity `v` with `6 v + 1` not zero (in particular
every `v >= 0`), `get_viscosity()` called after `set_viscosity(v)` returns `v`: with
`w = 2 / (6 v + 1)`, `(2 - w) / (6 w) = v` (exact arithmetic). -/
theorem viscosity_round_trip [CharZero K] {I T : Type}
    (on_lattice_model_change : FluctuatingMRTLatticeModel.LatticeModel K → T → T)
    (self : LBWalberlaD3Q19FluctuatingMRT K I T) (viscosity : K)
    (hv : 6 * viscosity + 1 ≠ 0) :
    get_viscosity (set_viscosity on_lattice_model_change self viscosity) = viscosity := by
  show (2 - 2 / (6 * viscosity + 1)) / (6 * (2 / (6 * viscosity + 1))) = viscosity
  field_simp
  ring

open LBWalberlaD3Q19FluctuatingMRT in
theorem viscosity_round_trip_witness :
    6 * (5 / 2 : ℚ) + 1 ≠ 0 ∧
    get_viscosity (set_viscosity (fun _ t => t) Example.lbY (5 / 2)) = 5 / 2 :=
  ⟨by norm_num, viscosity_round_trip (fun _ t => t) Example.lbY (5 / 2) (by norm_num)⟩

open LBWalberlaD3Q19FluctuatingMRT in
/-- C13, as amended (magic-number relation in exact arithmetic).  With the operations of the
two methods read as exact operations of an ordered field, for every viscosity `v > 0` the rates
set by `set_viscosity(v)` and by `construct_lattice_model(v, ...)` satisfy
`omega_odd = (4 - 2 omega_shear) / (4 (3/16) omega_shear + 2 - omega_shear)`, and for these shear
rates that formula is equivalent to `(1/omega_shear - 1/2) (1/omega_odd - 1/2) = 3/16`. -/
theorem magic_number_relation {F I T : Type} [LinearOrderedField F]
    (LatticeModel : LatticeModelCtor F I) (hctor : LatticeModelCtor.StoresRates LatticeModel)
    (on_lattice_model_change : FluctuatingMRTLatticeModel.LatticeModel F → T → T)
    (self : LBWalberlaD3Q19FluctuatingMRT F I T) (viscosity kT : F) (seed : Nat)
    (hv : 0 < viscosity) :
    (∀ m : FluctuatingMRTLatticeModel.LatticeModel F,
      (m = (set_viscosity on_lattice_model_change self viscosity).m_lattice_model
        ∨ m = (construct_lattice_model LatticeModel self viscosity kT seed).m_lattice_model) →
      m.omega_odd_
          = (4 - 2 * m.omega_shear_) / (4 * (3 / 16) * m.omega_shear_ + 2 - m.omega_shear_)
      ∧ (1 / m.omega_shear_ - 1 / 2) * (1 / m.omega_odd_ - 1 / 2) = 3 / 16
      ∧ ∀ x : F,
          x = (4 - 2 * m.omega_shear_) / (4 * (3 / 16) * m.omega_shear_ + 2 - m.omega_shear_)
            ↔ (1 / m.omega_shear_ - 1 / 2) * (1 / x - 1 / 2) = 3 / 16) := by
  obtain ⟨h0, h2⟩ := (omega_mem_iff viscosity).mpr hv
  have key : ∀ m : FluctuatingMRTLatticeModel.LatticeModel F,
      m.omega_shear_ = 2 / (6 * viscosity + 1) →
      m.omega_odd_ = (4 - 2 * (2 / (6 * viscosity + 1)))
        / (4 * (3 / 16) * (2 / (6 * viscosity + 1)) + 2 - 2 / (6 * viscosity + 1)) →
      m.omega_odd_
          = (4 - 2 * m.omega_shear_) / (4 * (3 / 16) * m.omega_shear_ + 2 - m.omega_shear_)
      ∧ (1 / m.omega_shear_ - 1 / 2) * (1 / m.omega_odd_ - 1 / 2) = 3 / 16
      ∧ ∀ x : F,
          x = (4 - 2 * m.omega_shear_) / (4 * (3 / 16) * m.omega_shear_ + 2 - m.omega_shear_)
            ↔ (1 / m.omega_shear_ - 1 / 2) * (1 / x - 1 / 2) = 3 / 16 := by
    intro m hs ho
    rw [hs]
    exact ⟨ho, (magic_iff _ _ h0 h2).mp ho, fun x => magic_iff _ x h0 h2⟩
  rintro m (hm | hm)
  · rw [hm]
    exact key _ rfl rfl
  · rw [hm]
    exact key _ (hctor _ _ _ _ _ _ _ _).2.2.2.2 (hctor _ _ _ _ _ _ _ _).2.2.2.1

open LBWalberlaD3Q19FluctuatingMRT in
theorem magic_number_relation_witness :
    (LatticeModelCtor.StoresRates Example.latticeModelCtor ∧ (0 : ℚ) < 2 ^ 60) ∧
    (1 / (set_viscosity (fun _ t => t) Example.lbY (2 ^ 60)).m_lattice_model.omega_shear_ - 1 / 2)
      * (1 / (set_viscosity (fun _ t => t) Example.lbY (2 ^ 60)).m_lattice_model.omega_odd_
        - 1 / 2) = 3 / 16 :=
  ⟨⟨fun _ _ _ _ _ _ _ _ => ⟨rfl, rfl, rfl, rfl, rfl⟩, by norm_num⟩,
    ((magic_number_relation Example.latticeModelCtor
      (fun _ _ _ _ _ _ _ _ => ⟨rfl, rfl, rfl, rfl, rfl⟩) (fun _ t => t) Example.lbY (2 ^ 60) 2 7
      (by norm_num)) _ (Or.inl rfl)).2.1⟩

open LBWalberlaD3Q19FluctuatingMRT in
/-- C14, as amended (relaxation-rate invariant in exact arithmetic).  With the operations of
the two methods read as exact operations of an ordered field, for every viscosity `v > 0`, after
`set_viscosity(v)` and after `construct_lattice_model(v, ...)` each of the four relaxation rates
`omega_shear`, `omega_bulk`, `omega_even` and `omega_odd` is strictly greater than 0 and
strictly less than 2. -/
theorem relaxation_rate_invariant {F I T : Type} [LinearOrderedField F]
    (LatticeModel : LatticeModelCtor F I) (hctor : LatticeModelCtor.StoresRates LatticeModel)
    (on_lattice_model_change : FluctuatingMRTLatticeModel.LatticeModel F → T → T)
    (self : LBWalberlaD3Q19FluctuatingMRT F I T) (viscosity kT : F) (seed : Nat)
    (hv : 0 < viscosity) :
    (∀ m : FluctuatingMRTLatticeModel.LatticeModel F,
      (m = (set_viscosity on_lattice_model_change self viscosity).m_lattice_model
        ∨ m = (construct_lattice_model LatticeModel self viscosity kT seed).m_lattice_model) →
      (0 < m.omega_shear_ ∧ m.omega_shear_ < 2) ∧ (0 < m.omega_bulk_ ∧ m.omega_bulk_ < 2)
      ∧ (0 < m.omega_even_ ∧ m.omega_even_ < 2) ∧ (0 < m.omega_odd_ ∧ m.omega_odd_ < 2)) := by
  have hw := (omega_mem_iff viscosity).mpr hv
  have ho := omega_odd_mem _ hw.1 hw.2
  rintro m (hm | hm)
  · rw [hm]
    exact ⟨hw, hw, hw, ho⟩
  · rw [hm]
    obtain ⟨-, c2, c3, c4, c5⟩ := hctor self.m_last_applied_force_field_id kT
      (2 / (6 * viscosity + 1)) (2 / (6 * viscosity + 1))
      ((4 - 2 * (2 / (6 * viscosity + 1)))
        / (4 * (3 / 16) * (2 / (6 * viscosity + 1)) + 2 - 2 / (6 * viscosity + 1)))
      (2 / (6 * viscosity + 1)) 1 seed
    exact ⟨c5.symm ▸ hw, c2.symm ▸ hw, c3.symm ▸ hw, c4.symm ▸ ho⟩

open LBWalberlaD3Q19FluctuatingMRT in
theorem relaxation_rate_invariant_witness :
    (LatticeModelCtor.StoresRates Example.latticeModelCtor ∧ (0 : ℚ) < 2 ^ 60) ∧
    ((0 < (set_viscosity (fun _ t => t) Example.lbY (2 ^ 60)).m_lattice_model.omega_odd_
      ∧ (set_viscosity (fun _ t => t) Example.lbY (2 ^ 60)).m_lattice_model.omega_odd_ < 2)) :=
  ⟨⟨fun _ _ _ _ _ _ _ _ => ⟨rfl, rfl, rfl, rfl, rfl⟩, by norm_num⟩,
    ((relaxation_rate_invariant Example.latticeModelCtor
      (fun _ _ _ _ _ _ _ _ => ⟨rfl, rfl, rfl, rfl, rfl⟩) (fun _ t => t) Example.lbY (2 ^ 60) 2 7
      (by norm_num)) _ (Or.inl rfl)).2.2.2⟩

open LBWalberlaD3Q19FluctuatingMRT in
/-- C16, counterexample.  On a model with `omega_bulk_ = 1/2` and `omega_even_ = 1/3`,
`set_viscosity(1/6)` leaves `omega_bulk_ = 1` and `omega_even_ = 1`: the two rates do not keep
the values they had before the call. -/
theorem set_viscosity_frame_counterexample :
    (Example.lbY.m_lattice_model.omega_bulk_ = 1 / 2
      ∧ Example.lbY.m_lattice_model.omega_even_ = 1 / 3)
    ∧ (set_viscosity (fun _ t => t) Example.lbY (1 / 6)).m_lattice_model.omega_bulk_ = 1
    ∧ (set_viscosity (fun _ t => t) Example.lbY (1 / 6)).m_lattice_model.omega_even_ = 1
    ∧ (set_viscosity (fun _ t => t) Example.lbY (1 / 6)).m_lattice_model.omega_bulk_
      ≠ Example.lbY.m_lattice_model.omega_bulk_
    ∧ (set_viscosity (fun _ t => t) Example.lbY (1 / 6)).m_lattice_model.omega_even_
      ≠ Example.lbY.m_lattice_model.omega_even_ := by
  have e : (2 / (6 * (1 / 6) + 1) : ℚ) = 1 := by norm_num
  have b : (set_viscosity (fun _ t => t) Example.lbY (1 / 6)).m_lattice_model.omega_bulk_ = 1 := e
  have v : (set_viscosity (fun _ t => t) Example.lbY (1 / 6)).m_lattice_model.omega_even_ = 1 := e
  refine ⟨⟨rfl, rfl⟩, b, v, ?_, ?_⟩
  · rw [b]
    show (1 : ℚ) ≠ 1 / 2
    norm_num
  · rw [v]
    show (1 : ℚ) ≠ 1 / 3
    norm_num

open LBWalberlaD3Q19FluctuatingMRT in
/-- C16, as amended.  `set_viscosity(v)` rewrites all four relaxation rates: `omega_shear`,
`omega_even` and `omega_bulk` become `2 / (6 v + 1)` and `omega_odd` the value the magic-number
formula derives from it, whatever `omega_bulk` and `omega_even` were before; `kT`, the seed,
the time-step counter, the force field and the block offsets of the lattice model keep the
values they had before the call (as do `m_kT` and the force field id of the object). -/
theorem set_viscosity_frame {I T : Type}
    (on_lattice_model_change : FluctuatingMRTLatticeModel.LatticeModel K → T → T)
    (self : LBWalberlaD3Q19FluctuatingMRT K I T) (viscosity : K) :
    ((set_viscosity on_lattice_model_change self viscosity).m_lattice_model.omega_shear_
        = 2 / (6 * viscosity + 1)
      ∧ (set_viscosity on_lattice_model_change self viscosity).m_lattice_model.omega_even_
        = 2 / (6 * viscosity + 1)
      ∧ (set_viscosity on_lattice_model_change self viscosity).m_lattice_model.omega_bulk_
        = 2 / (6 * viscosity + 1)
      ∧ (set_viscosity on_lattice_model_change self viscosity).m_lattice_model.omega_odd_
        = (4 - 2 * (2 / (6 * viscosity + 1)))
          / (4 * (3 / 16) * (2 / (6 * viscosity + 1)) + 2 - 2 / (6 * viscosity + 1)))
    ∧ ((set_viscosity on_lattice_model_change self viscosity).m_lattice_model.kT_
        = self.m_lattice_model.kT_
      ∧ (set_viscosity on_lattice_model_change self viscosity).m_lattice_model.seed_
        = self.m_lattice_model.seed_
      ∧ (set_viscosity on_lattice_model_change self viscosity).m_lattice_model.time_step_
        = self.m_lattice_model.time_step_
      ∧ (set_viscosity on_lattice_model_change self viscosity).m_lattice_model.force_
        = self.m_lattice_model.force_
      ∧ (set_viscosity on_lattice_model_change self viscosity).m_lattice_model.block_offset_0_
        = self.m_lattice_model.block_offset_0_
      ∧ (set_viscosity on_lattice_model_change self viscosity).m_lattice_model.block_offset_1_
        = self.m_lattice_model.block_offset_1_
      ∧ (set_viscosity on_lattice_model_change self viscosity).m_lattice_model.block_offset_2_
        = self.m_lattice_model.block_offset_2_)
    ∧ (set_viscosity on_lattice_model_change self viscosity).m_kT = self.m_kT
    ∧ (set_viscosity on_lattice_model_change self viscosity).m_last_applied_force_field_id
        = self.m_last_applied_force_field_id :=
  ⟨⟨rfl, rfl, rfl, rfl⟩, ⟨rfl, rfl, rfl, rfl, rfl, rfl, rfl⟩, rfl, rfl⟩

open LBWalberlaD3Q19FluctuatingMRT in
theorem set_viscosity_frame_witness :
    (set_viscosity (fun _ t => t) Example.lbY (1 / 6)).m_lattice_model.omega_bulk_
        = 2 / (6 * (1 / 6) + 1)
    ∧ (set_viscosity (fun _ t => t) Example.lbY (1 / 6)).m_lattice_model.kT_ = 2 :=
  ⟨(set_viscosity_frame (fun _ t => t) Example.lbY (1 / 6)).1.2.2.1,
    (set_viscosity_frame (fun _ t => t) Example.lbY (1 / 6)).2.1.1⟩


open LBWalberlaD3Q19FluctuatingMRT in
/-- C17, counterexample.  `time_step_` is a 32-bit counter.  On a model whose counter is
`2^32 - 1` one call of `integrate()` leaves the counter 0, not the initial value plus 1, and
after `2^32` calls the counter is again the initial value: the steps number 0 and `2^32` use
the same RNG time-step counter. -/
theorem time_step_counter_counterexample :
    Example.lbY.m_lattice_model.time_step_ = 4294967295
    ∧ (integrate id (fun _ t => t) Example.lbY).m_lattice_model.time_step_ = 0
    ∧ (integrate id (fun _ t => t) Example.lbY).m_lattice_model.time_step_
      ≠ Example.lbY.m_lattice_model.time_step_ + 1
    ∧ (integrate_n id (fun _ t => t) 4294967296 Example.lbY).m_lattice_model.time_step_
      = Example.lbY.m_lattice_model.time_step_ := by
  refine ⟨rfl, rfl, by decide, ?_⟩
  rw [integrate_n_lattice_model id (fun _ t => t) Example.lbY (by decide) 4294967296]
  decide

open LBWalberlaD3Q19FluctuatingMRT in
/-- C17, as amended (time-step counter).  Every call of `integrate()` performs exactly one
`singleStep` and then increases the lattice model's `time_step_` by exactly 1 modulo `2^32`
(it is a 32-bit counter), changing no relaxation rate, `kT` or seed; so after `n` calls the
counter equals its initial value plus `n` modulo `2^32`, and two steps fewer than `2^32`
calls apart never use the same RNG time-step counter. -/
theorem time_step_counter {I T : Type} (singleStep : T → T)
    (on_lattice_model_change : FluctuatingMRTLatticeModel.LatticeModel K → T → T)
    (self : LBWalberlaD3Q19FluctuatingMRT K I T)
    (ht : self.m_lattice_model.time_step_ < 4294967296) :
    ((integrate singleStep on_lattice_model_change self).m_time_loop
        = on_lattice_model_change
            (integrate singleStep on_lattice_model_change self).m_lattice_model
            (singleStep self.m_time_loop)
      ∧ (integrate singleStep on_lattice_model_change self).m_lattice_model.time_step_
        = (self.m_lattice_model.time_step_ + 1) % 4294967296)
    ∧ (∀ n : Nat,
      (integrate_n singleStep on_lattice_model_change n self).m_lattice_model.time_step_
          = (self.m_lattice_model.time_step_ + n) % 4294967296
        ∧ (integrate_n singleStep on_lattice_model_change n self).m_lattice_model.omega_shear_
          = self.m_lattice_model.omega_shear_
        ∧ (integrate_n singleStep on_lattice_model_change n self).m_lattice_model.omega_bulk_
          = self.m_lattice_model.omega_bulk_
        ∧ (integrate_n singleStep on_lattice_model_change n self).m_lattice_model.omega_even_
          = self.m_lattice_model.omega_even_
        ∧ (integrate_n singleStep on_lattice_model_change n self).m_lattice_model.omega_odd_
          = self.m_lattice_model.omega_odd_
        ∧ (integrate_n singleStep on_lattice_model_change n self).m_lattice_model.kT_
          = self.m_lattice_model.kT_
        ∧ (integrate_n singleStep on_lattice_model_change n self).m_lattice_model.seed_
          = self.m_lattice_model.seed_)
    ∧ (∀ i j : Nat, i < j → j < i + 4294967296 →
      (integrate_n singleStep on_lattice_model_change i self).m_lattice_model.time_step_
        ≠ (integrate_n singleStep on_lattice_model_change j self).m_lattice_model.time_step_) := by
  refine ⟨⟨rfl, rfl⟩, ?_, ?_⟩
  · intro n
    rw [integrate_n_lattice_model singleStep on_lattice_model_change self ht n]
    exact ⟨rfl, rfl, rfl, rfl, rfl, rfl, rfl⟩
  · intro i j hij hj
    rw [integrate_n_lattice_model singleStep on_lattice_model_change self ht i,
      integrate_n_lattice_model singleStep on_lattice_model_change self ht j]
    show (self.m_lattice_model.time_step_ + i) % 4294967296
      ≠ (self.m_lattice_model.time_step_ + j) % 4294967296
    omega

open LBWalberlaD3Q19FluctuatingMRT in
theorem time_step_counter_witness :
    Example.lbY.m_lattice_model.time_step_ < 4294967296 ∧
    (integrate_n id (fun _ t => t) 3 Example.lbY).m_lattice_model.time_step_
      = (Example.lbY.m_lattice_model.time_step_ + 3) % 4294967296 :=
  ⟨by decide, ((time_step_counter id (fun _ t => t) Example.lbY (by decide)).2.1 3).1⟩

open lb_walberla_instance in
/-- C18 (access before initialization fails fast).  `lb_walberla()` throws the runtime error
`Attempted access to uninitialized LbWalberla instance.` exactly when no instance exists:
before any call, and after a `destruct_lb_walberla` with no later `init_lb_walberla`.  After an
`init_lb_walberla` with no later call it returns the instance built from the arguments of that
`init_lb_walberla`; whatever it returns is the instance held, never a null pointer. -/
theorem access_before_initialization :
    (∀ inst : Instance K,
      lb_walberla inst = Except.error "Attempted access to uninitialized LbWalberla instance."
        ↔ inst = none)
    ∧ (∀ (inst : Instance K) (p : LbWalberla K), lb_walberla inst = Except.ok p ↔ inst = some p)
    ∧ lb_walberla (after ([] : List (Call K)))
        = Except.error "Attempted access to uninitialized LbWalberla instance."
    ∧ (∀ calls : List (Call K), lb_walberla (after (calls ++ [Call.destruct]))
        = Except.error "Attempted access to uninitialized LbWalberla instance.")
    ∧ (∀ (calls : List (Call K)) (viscosity agrid : K) (box_dimensions : Fin 3 → K)
        (node_grid : Fin 3 → Int) (skin : K),
      lb_walberla (after (calls ++ [Call.init viscosity agrid box_dimensions node_grid skin]))
        = Except.ok ⟨viscosity, agrid, box_dimensions, node_grid, skin⟩) := by
  refine ⟨?_, ?_, rfl, ?_, ?_⟩
  · intro inst
    cases inst with
    | none => exact ⟨fun _ => rfl, fun _ => rfl⟩
    | some p =>
      constructor
      · intro h
        cases h
      · intro h
        cases h
  · intro inst p
    cases inst with
    | none =>
      constructor
      · intro h
        cases h
      · intro h
        cases h
    | some p' =>
      constructor
      · intro h
        cases h
        rfl
      · intro h
        cases h
        rfl
  · intro calls
    show lb_walberla (List.foldl Call.exec lb_walberla_instance (calls ++ [Call.destruct])) = _
    rw [List.foldl_append]
    rfl
  · intro calls viscosity agrid box_dimensions node_grid skin
    show lb_walberla (List.foldl Call.exec lb_walberla_instance (calls ++ [_])) = _
    rw [List.foldl_append]
    rfl


open FluctuatingMRTLatticeModel in
/-- C19 (fluctuation-dissipation amplitude).  In `kernel_collide` and in
`kernel_streamCollide` the noise added to each of the fifteen relaxing moments, that is the
difference between the moment of the values written and the moment of the values written by
the same collision with `kT = 0`, is `(draw - 1/2)` times a fixed constant times
`sqrt(kT * rho * (1 - (1 - w)^2))`, where `w` is `omega_shear` for the five shear moments,
`omega_bulk` for the bulk moment, `omega_odd` for the six odd moments and `omega_even` for the
three even moments, each moment has its own draw, and `rho`, the density the kernel computes,
is the sum of the nineteen populations of the cell (for the fused kernel: of the nineteen
populations pulled).  (`sqrt 0 = 0` is the only fact used about `sqrt`.) -/
theorem fluctuation_dissipation_amplitude [CharZero K] (s : Site K) (hsqrt : s.sqrt 0 = 0)
    (j : Fin 15) :
    (kernel_collide.rho s = ∑ q, s._data_pdfs s.ctr_0 s.ctr_1 s.ctr_2 q
      ∧ ∑ q, (noiseMoment j q : K) * kernel_collide.values s q
        = ∑ q, (noiseMoment j q : K) * kernel_collide.values (quiet s) q
          + (kernel_collide.noiseDraw s j - 1 / 2) * noiseConst j
            * s.sqrt (s.kT * (∑ q, s._data_pdfs s.ctr_0 s.ctr_1 s.ctr_2 q)
                * (1 - (1 - noiseRate s j) ^ 2)))
    ∧ (kernel_streamCollide.rho s
        = ∑ q, s._data_pdfs (s.ctr_0 - cx q) (s.ctr_1 - cy q) (s.ctr_2 - cz q) q
      ∧ ∑ q, (noiseMoment j q : K) * kernel_streamCollide.values s q
        = ∑ q, (noiseMoment j q : K) * kernel_streamCollide.values (quiet s) q
          + (kernel_streamCollide.noiseDraw s j - 1 / 2) * noiseConst j
            * s.sqrt (s.kT
                * (∑ q, s._data_pdfs (s.ctr_0 - cx q) (s.ctr_1 - cy q) (s.ctr_2 - cz q) q)
                * (1 - (1 - noiseRate s j) ^ 2))) :=
  ⟨⟨kernel_collide.rho_eq_sum s, kernel_collide.noise_moment s hsqrt j⟩,
    ⟨kernel_streamCollide.rho_eq_sum_fused s, kernel_streamCollide.noise_moment_fused s hsqrt j⟩⟩

open FluctuatingMRTLatticeModel in
theorem fluctuation_dissipation_amplitude_witness :
    Example.siteA.sqrt 0 = 0 ∧
    ∑ q, (noiseMoment 5 q : ℚ) * kernel_collide.values Example.siteA q
      = ∑ q, (noiseMoment 5 q : ℚ) * kernel_collide.values (quiet Example.siteA) q
        + (kernel_collide.noiseDraw Example.siteA 5 - 1 / 2) * noiseConst 5
          * Example.siteA.sqrt (Example.siteA.kT
              * (∑ q, Example.siteA._data_pdfs Example.siteA.ctr_0 Example.siteA.ctr_1
                  Example.siteA.ctr_2 q)
              * (1 - (1 - noiseRate Example.siteA 5) ^ 2)) :=
  ⟨rfl, (fluctuation_dissipation_amplitude Example.siteA rfl 5).1.2⟩

/-- C21 (regularized density).  When the CPU LB is switched on (`lattice_switch & LATTICE_LB`
is not zero) `lb_calc_local_rho(index)` stores the reference density `lbpar.rho * agrid^3`
plus the sum of the nineteen populations `lbfluid[0..18][index]` and raises no error; when it
is not switched on it raises one runtime error and stores `rho = 0`. -/
theorem regularized_density (LATTICE_LB : Nat) (file : String) (lattice_switch : Nat)
    (lbpar : lb.LB_Parameters K) (lbfluid : lb.LB_Fluid K) (index : Nat) :
    (lattice_switch &&& LATTICE_LB ≠ 0 →
      lb.lb_calc_local_rho LATTICE_LB file lattice_switch lbpar lbfluid index
        = (lbpar.rho * lbpar.agrid ^ 3 + ∑ i, lbfluid i index, [])) ∧
    (lattice_switch &&& LATTICE_LB = 0 →
      lb.lb_calc_local_rho LATTICE_LB file lattice_switch lbpar lbfluid index
        = (0, [lb.lb_calc_local_rho_message file])) := by
  constructor
  · intro h
    unfold lb.lb_calc_local_rho
    rw [if_neg h]
    refine Prod.ext ?_ rfl
    show _ = lbpar.rho * lbpar.agrid ^ 3 + ∑ i, lbfluid i index
    rw [sum19 (fun i => lbfluid i index)]
    ring
  · intro h
    unfold lb.lb_calc_local_rho
    rw [if_pos h]

theorem regularized_density_witness :
    ((1 : Nat) &&& 1 ≠ 0 ∧
      lb.lb_calc_local_rho 1 "lb.hpp" 1 Example.lbparE Example.lbfluidE 5
        = (Example.lbparE.rho * Example.lbparE.agrid ^ 3 + ∑ i, Example.lbfluidE i 5, [])) ∧
    ((2 : Nat) &&& 1 = 0 ∧
      lb.lb_calc_local_rho 1 "lb.hpp" 2 Example.lbparE Example.lbfluidE 5
        = (0, [lb.lb_calc_local_rho_message "lb.hpp"])) :=
  ⟨⟨by decide,
      (regularized_density 1 "lb.hpp" 1 Example.lbparE Example.lbfluidE 5).1 (by decide)⟩,
    ⟨by decide,
      (regularized_density 1 "lb.hpp" 2 Example.lbparE Example.lbfluidE 5).2 (by decide)⟩⟩

open FluctuatingMRTLatticeModel in
/-- C26 (density and velocity moments of the kernel).  At every cell the loop body of
`kernel_collide` computes `rho` as the plain sum of the nineteen populations of the cell and
`u_a` as the sum of `c_qa f_q` divided by `rho`; the force does not enter `u` (another force
field gives the same `u`).  The loop body of `kernel_streamCollide` computes the same two
quantities from the nineteen populations pulled from the neighbours,
`f_q = src[(x, y, z) - c_q][q]`. -/
theorem density_and_velocity_moments [CharZero K] (s : Site K) :
    (kernel_collide.rho s = ∑ q, s._data_pdfs s.ctr_0 s.ctr_1 s.ctr_2 q
      ∧ (∀ a, kernel_collide.u s a
          = (∑ q, (cvec q a : K) * s._data_pdfs s.ctr_0 s.ctr_1 s.ctr_2 q)
            / ∑ q, s._data_pdfs s.ctr_0 s.ctr_1 s.ctr_2 q)
      ∧ (∀ F : ForceField K,
          kernel_collide.u ⟨s.sqrt, s.philox_double2, F, s._data_pdfs, s.block_offset_0,
            s.block_offset_1, s.block_offset_2, s.kT, s.omega_bulk, s.omega_even, s.omega_odd,
            s.omega_shear, s.seed, s.time_step, s.ctr_0, s.ctr_1, s.ctr_2⟩
          = kernel_collide.u s))
    ∧ (kernel_streamCollide.rho s
        = ∑ q, s._data_pdfs (s.ctr_0 - cx q) (s.ctr_1 - cy q) (s.ctr_2 - cz q) q
      ∧ (∀ a, kernel_streamCollide.u s a
          = (∑ q, (cvec q a : K)
                * s._data_pdfs (s.ctr_0 - cx q) (s.ctr_1 - cy q) (s.ctr_2 - cz q) q)
            / ∑ q, s._data_pdfs (s.ctr_0 - cx q) (s.ctr_1 - cy q) (s.ctr_2 - cz q) q)
      ∧ (∀ F : ForceField K,
          kernel_streamCollide.u ⟨s.sqrt, s.philox_double2, F, s._data_pdfs, s.block_offset_0,
            s.block_offset_1, s.block_offset_2, s.kT, s.omega_bulk, s.omega_even, s.omega_odd,
            s.omega_shear, s.seed, s.time_step, s.ctr_0, s.ctr_1, s.ctr_2⟩
          = kernel_streamCollide.u s)) := by
  refine ⟨⟨kernel_collide.rho_eq_sum s, fun a => ?_, fun F => ?_⟩,
    ⟨kernel_streamCollide.rho_eq_sum_fused s, fun a => ?_, fun F => ?_⟩⟩
  · rw [kernel_collide.u_eq, kernel_collide.rho_eq_sum]
  · funext a
    rw [kernel_collide.u_eq, kernel_collide.u_eq, kernel_collide.rho_eq_sum,
      kernel_collide.rho_eq_sum]
  · rw [kernel_streamCollide.u_eq_fused, kernel_streamCollide.rho_eq_sum_fused]
  · funext a
    rw [kernel_streamCollide.u_eq_fused, kernel_streamCollide.u_eq_fused,
      kernel_streamCollide.rho_eq_sum_fused, kernel_streamCollide.rho_eq_sum_fused]

open FluctuatingMRTLatticeModel in
theorem density_and_velocity_moments_witness :
    kernel_collide.rho Example.siteQ
        = ∑ q, Example.siteQ._data_pdfs Example.siteQ.ctr_0 Example.siteQ.ctr_1
            Example.siteQ.ctr_2 q
      ∧ kernel_streamCollide.rho Example.siteQ
        = ∑ q, Example.siteQ._data_pdfs (Example.siteQ.ctr_0 - cx q)
            (Example.siteQ.ctr_1 - cy q) (Example.siteQ.ctr_2 - cz q) q :=
  ⟨(density_and_velocity_moments Example.siteQ).1.1,
    (density_and_velocity_moments Example.siteQ).2.1⟩

open FluctuatingMRTLatticeModel in
/-- C28 (square-root domain).  For every `w` the factor `1 - (1 - w)^2` equals `w * (2 - w)`,
and for `0 <= w <= 2` it is non-negative.  The four calls of `sqrt` in the loop body of
`kernel_collide` (in `xi_102`, `xi_106`, `xi_136`, `xi_152`) have the arguments
`kT * rho * (1 - (1 - w)^2)` for `w = omega_even, omega_bulk, omega_odd, omega_shear`; so
with `kT >= 0`, `rho >= 0` and the rate in `[0, 2]` the argument is non-negative, and with
`kT * rho > 0` and the rate outside `[0, 2]` it is negative. -/
theorem sqrt_domain {F : Type} [LinearOrderedField F] (s : Site F) :
    (∀ w : F, 1 - (1 - w) ^ 2 = w * (2 - w)) ∧
    (∀ w : F, 0 ≤ w → w ≤ 2 → 0 ≤ 1 - (1 - w) ^ 2) ∧
    (kernel_collide.xi_102 s = s.sqrt (kernel_collide.sqrtArgs s 0)
      ∧ kernel_collide.xi_106 s
        = kernel_collide.xi_105 s * s.sqrt (kernel_collide.sqrtArgs s 1)
          * (kernel_collide.random_2_1 s - 1 / 2)
      ∧ kernel_collide.xi_136 s = s.sqrt (kernel_collide.sqrtArgs s 2)
      ∧ kernel_collide.xi_152 s = s.sqrt (kernel_collide.sqrtArgs s 3)) ∧
    (∀ i, kernel_collide.sqrtArgs s i
      = s.kT * kernel_collide.rho s * (1 - (1 - sqrtRate s i) ^ 2)) ∧
    (∀ i, 0 ≤ s.kT → 0 ≤ kernel_collide.rho s → 0 ≤ sqrtRate s i → sqrtRate s i ≤ 2 →
      0 ≤ kernel_collide.sqrtArgs s i) ∧
    (∀ i, 0 < s.kT * kernel_collide.rho s → (sqrtRate s i < 0 ∨ 2 < sqrtRate s i) →
      kernel_collide.sqrtArgs s i < 0) := by
  have e : ∀ w : F, 1 - (1 - w) ^ 2 = w * (2 - w) := fun w => by ring
  refine ⟨e, ?_, ⟨rfl, rfl, rfl, rfl⟩, kernel_collide.sqrtArgs_eq s, ?_, ?_⟩
  · intro w h0 h2
    rw [e]
    exact mul_nonneg h0 (by linarith)
  · intro i hkT hrho h0 h2
    rw [kernel_collide.sqrtArgs_eq, e]
    exact mul_nonneg (mul_nonneg hkT hrho) (mul_nonneg h0 (by linarith))
  · intro i hpos h
    rw [kernel_collide.sqrtArgs_eq, e]
    refine mul_neg_of_pos_of_neg hpos ?_
    rcases h with h | h
    · exact mul_neg_of_neg_of_pos h (by linarith)
    · exact mul_neg_of_pos_of_neg (by linarith) (by linarith)

open FluctuatingMRTLatticeModel in
theorem sqrt_domain_witness :
    ((0 : ℚ) ≤ Example.siteA.kT ∧ 0 ≤ kernel_collide.rho Example.siteA
      ∧ 0 ≤ sqrtRate Example.siteA 0 ∧ sqrtRate Example.siteA 0 ≤ 2
      ∧ 0 ≤ kernel_collide.sqrtArgs Example.siteA 0) ∧
    (0 < Example.siteW.kT * kernel_collide.rho Example.siteW
      ∧ (sqrtRate Example.siteW 0 < 0 ∨ 2 < sqrtRate Example.siteW 0)
      ∧ kernel_collide.sqrtArgs Example.siteW 0 < 0) := by
  have hA : kernel_collide.rho Example.siteA = 1 := by
    rw [kernel_collide.rho_eq_sum]
    simp [Example.siteA, Example.pdfsC]
  have hW : kernel_collide.rho Example.siteW = 1 := by
    rw [kernel_collide.rho_eq_sum]
    simp [Example.siteW, Example.pdfsC]
  have a1 : (0 : ℚ) ≤ Example.siteA.kT := by simp [Example.siteA]
  have a2 : 0 ≤ kernel_collide.rho Example.siteA := by simp [hA]
  have a3 : 0 ≤ sqrtRate Example.siteA 0 := by simp [sqrtRate, Example.siteA]
  have a4 : sqrtRate Example.siteA 0 ≤ 2 := by simp [sqrtRate, Example.siteA]
  have w1 : 0 < Example.siteW.kT * kernel_collide.rho Example.siteW := by
    rw [hW]
    simp [Example.siteW]
  have w2 : sqrtRate Example.siteW 0 < 0 ∨ 2 < sqrtRate Example.siteW 0 :=
    Or.inr (by norm_num [sqrtRate, Example.siteW])
  exact ⟨⟨a1, a2, a3, a4, (sqrt_domain Example.siteA).2.2.2.2.1 0 a1 a2 a3 a4⟩,
    ⟨w1, w2, (sqrt_domain Example.siteW).2.2.2.2.2 0 w1 w2⟩⟩

open FluctuatingMRTLatticeModel in
/-- C22, counterexample.  For `g = 0` the fused sweep neither requires two ghost layers nor
reads anything two layers out: the block `blockY` has one ghost layer in each field and passes
every check of `Sweep::streamCollide`, and the block `blockG`, whose force differs from that
of `blockY` in every cell outside the owned one and whose populations differ in every cell two
or more layers out, gives the same result. -/
theorem fused_ghost_layer_counterexample :
    Sweep.streamCollide_asserts Example.blockY 0 = true
    ∧ Example.blockY.lm.force_.nrOfGhostLayers = 1
    ∧ Example.blockY.pdfs.nrOfGhostLayers = 1
    ∧ Example.blockY.pdfs_tmp.nrOfGhostLayers = 1
    ∧ (∀ x y z : Int, ¬ (x = 0 ∧ y = 0 ∧ z = 0) →
        Example.blockG.lm.force_.data x y z 1 ≠ Example.blockY.lm.force_.data x y z 1)
    ∧ (∀ (x y z : Int) (q : Fin 19),
        ¬ ((-1 ≤ x ∧ x ≤ 1) ∧ (-1 ≤ y ∧ y ≤ 1) ∧ (-1 ≤ z ∧ z ≤ 1)) →
        Example.blockG.pdfs.data x y z q ≠ Example.blockY.pdfs.data x y z q)
    ∧ (Sweep.streamCollide Example.sqrt0 Example.philoxA Example.blockG 0).pdfs.data
      = (Sweep.streamCollide Example.sqrt0 Example.philoxA Example.blockY 0).pdfs.data :=
  ⟨by decide, rfl, rfl, rfl, Example.forceY_differs, Example.pdfsG_differs,
    Sweep.streamCollide_reads Example.sqrt0 Example.philoxA Example.blockY 0 Example.pdfsG
      Example.forceY Example.pdfsG_agrees Example.forceY_agrees⟩

open FluctuatingMRTLatticeModel in
/-- C22, as amended (ghost-layer requirement).  Plain streaming and the fused pass both need a
ghost-layer width of at least 1.  The checks of `Sweep::stream` and of `Sweep::streamCollide`
with `numberOfGhostLayersToInclude = g` hold exactly when the fields they use have at least
`g + 1` ghost layers.  `Sweep::stream` reads populations at most `g + 1` layers outside the
owned region (populations that differ further out give the same result) and writes at most
`g` layers outside; `Sweep::streamCollide` reads populations at most `g + 1` layers outside
and the force only at the cells it writes, at most `g` layers outside. -/
theorem ghost_layer_requirement (sqrt : K → K) (philox_double2 : Philox K) (block : Block K)
    (g : Nat) :
    (Sweep.stream_asserts block g = true
      ↔ g + 1 ≤ block.pdfs.nrOfGhostLayers ∧ g + 1 ≤ block.pdfs_tmp.nrOfGhostLayers)
    ∧ (Sweep.streamCollide_asserts block g = true
      ↔ g + 1 ≤ block.lm.force_.nrOfGhostLayers ∧ g + 1 ≤ block.pdfs.nrOfGhostLayers
        ∧ g + 1 ≤ block.pdfs_tmp.nrOfGhostLayers)
    ∧ (∀ p : PdfField K,
        (∀ (x y z : Int) (q : Fin 19),
          (-(g : Int) - 1 ≤ x ∧ x < block.pdfs.xSize + g + 1)
            ∧ (-(g : Int) - 1 ≤ y ∧ y < block.pdfs.ySize + g + 1)
            ∧ (-(g : Int) - 1 ≤ z ∧ z < block.pdfs.zSize + g + 1) →
          p x y z q = block.pdfs.data x y z q) →
        (Sweep.stream ⟨{ block.pdfs with data := p }, block.pdfs_tmp, block.lm⟩ g).pdfs.data
          = (Sweep.stream block g).pdfs.data)
    ∧ (∀ (x y z : Int) (q : Fin 19),
        ¬ ((-(g : Int) ≤ x ∧ x < block.pdfs.xSize + g)
          ∧ (-(g : Int) ≤ y ∧ y < block.pdfs.ySize + g)
          ∧ (-(g : Int) ≤ z ∧ z < block.pdfs.zSize + g)) →
        (Sweep.stream block g).pdfs.data x y z q = block.pdfs_tmp.data x y z q)
    ∧ (∀ (p : PdfField K) (F : ForceField K),
        (∀ (x y z : Int) (q : Fin 19),
          (-(g : Int) - 1 ≤ x ∧ x < block.lm.force_.xSize + g + 1)
            ∧ (-(g : Int) - 1 ≤ y ∧ y < block.lm.force_.ySize + g + 1)
            ∧ (-(g : Int) - 1 ≤ z ∧ z < block.lm.force_.zSize + g + 1) →
          p x y z q = block.pdfs.data x y z q) →
        (∀ (x y z : Int) (a : Fin 3),
          (-(g : Int) ≤ x ∧ x < block.lm.force_.xSize + g)
            ∧ (-(g : Int) ≤ y ∧ y < block.lm.force_.ySize + g)
            ∧ (-(g : Int) ≤ z ∧ z < block.lm.force_.zSize + g) →
          F x y z a = block.lm.force_.data x y z a) →
        (Sweep.streamCollide sqrt philox_double2
            ⟨{ block.pdfs with data := p }, block.pdfs_tmp,
              { block.lm with force_ := { block.lm.force_ with data := F } }⟩ g).pdfs.data
          = (Sweep.streamCollide sqrt philox_double2 block g).pdfs.data)
    ∧ (∀ (x y z : Int) (q : Fin 19),
        ¬ ((-(g : Int) ≤ x ∧ x < block.lm.force_.xSize + g)
          ∧ (-(g : Int) ≤ y ∧ y < block.lm.force_.ySize + g)
          ∧ (-(g : Int) ≤ z ∧ z < block.lm.force_.zSize + g)) →
        (Sweep.streamCollide sqrt philox_double2 block g).pdfs.data x y z q
          = block.pdfs_tmp.data x y z q) :=
  ⟨Sweep.stream_asserts_iff block g, Sweep.streamCollide_asserts_iff block g,
    fun p hp => Sweep.stream_reads block g p hp,
    fun x y z q h => Sweep.stream_data_outside block g x y z q h,
    fun p F hp hF => Sweep.streamCollide_reads sqrt philox_double2 block g p F hp hF,
    fun x y z q h => Sweep.streamCollide_data_outside sqrt philox_double2 block g x y z q h⟩

open FluctuatingMRTLatticeModel in
theorem ghost_layer_requirement_witness :
    (0 + 1 ≤ Example.blockY.lm.force_.nrOfGhostLayers
      ∧ 0 + 1 ≤ Example.blockY.pdfs.nrOfGhostLayers
      ∧ 0 + 1 ≤ Example.blockY.pdfs_tmp.nrOfGhostLayers)
    ∧ Sweep.streamCollide_asserts Example.blockY 0 = true
    ∧ (Sweep.streamCollide Example.sqrt0 Example.philoxB
          ⟨{ Example.blockY.pdfs with data := Example.pdfsG }, Example.blockY.pdfs_tmp,
            { Example.blockY.lm with
              force_ := { Example.blockY.lm.force_ with data := Example.forceY } }⟩ 0).pdfs.data
        = (Sweep.streamCollide Example.sqrt0 Example.philoxB Example.blockY 0).pdfs.data :=
  ⟨by decide,
    (ghost_layer_requirement Example.sqrt0 Example.philoxB Example.blockY 0).2.1.2 (by decide),
    (ghost_layer_requirement Example.sqrt0 Example.philoxB Example.blockY 0).2.2.2.2.1
      Example.pdfsG Example.forceY Example.pdfsG_agrees Example.forceY_agrees⟩

open FluctuatingMRTLatticeModel in
/-- C23 (no read-after-write hazard).  `kernel_stream` and `kernel_streamCollide` return the
new content of the destination buffer: at an interior cell a value computed from the source
buffer (and, for the fused kernel, the force field) as they were before the pass, elsewhere
the old content of the destination; the value at a cell is the same for every source and
force that agree with the given ones at the cells read (the nineteen neighbours in the
source, the cell itself in the force), whatever the destination held.  After `Sweep::stream`
and `Sweep::streamCollide` the swapped-out buffer holds the source populations unchanged and
the lattice model, with its force field, is unchanged.  `kernel_collide`, which updates in
place, writes at each cell of the box the collision of the populations that cell held before
the pass, although the loop hands on the partly updated field: the result at a cell is the
same for every field and force that agree with the given ones at that one cell, so it depends
neither on the other cells nor on the order of the visits. -/
theorem no_read_after_write_hazard (sqrt : K → K) (philox_double2 : Philox K)
    (_data_force : ForceField K) (_data_pdfs _data_pdfs_tmp : PdfField K)
    (_size_force_0 _size_force_1 _size_force_2 : Int)
    (block_offset_0 block_offset_1 block_offset_2 : Nat)
    (kT omega_bulk omega_even omega_odd omega_shear : K) (seed time_step : Nat)
    (block : Block K) (g : Nat) (x y z : Int) (q : Fin 19) :
    (kernel_stream _data_pdfs _data_pdfs_tmp _size_force_0 _size_force_1 _size_force_2 x y z q
      = if (1 ≤ x ∧ x < _size_force_0 - 1) ∧ (1 ≤ y ∧ y < _size_force_1 - 1)
          ∧ (1 ≤ z ∧ z < _size_force_2 - 1)
        then _data_pdfs (x - cx q) (y - cy q) (z - cz q) q
        else _data_pdfs_tmp x y z q)
    ∧ (kernel_streamCollide sqrt philox_double2 _data_force _data_pdfs _data_pdfs_tmp
          _size_force_0 _size_force_1 _size_force_2 block_offset_0 block_offset_1 block_offset_2
          kT omega_bulk omega_even omega_odd omega_shear seed time_step x y z q
      = if (1 ≤ x ∧ x < _size_force_0 - 1) ∧ (1 ≤ y ∧ y < _size_force_1 - 1)
          ∧ (1 ≤ z ∧ z < _size_force_2 - 1)
        then kernel_streamCollide.values ⟨sqrt, philox_double2, _data_force, _data_pdfs,
          block_offset_0, block_offset_1, block_offset_2,
          kT, omega_bulk, omega_even, omega_odd, omega_shear, seed, time_step, x, y, z⟩ q
        else _data_pdfs_tmp x y z q)
    ∧ (∀ (force' : ForceField K) (pdfs' tmp' : PdfField K),
        (1 ≤ x ∧ x < _size_force_0 - 1) ∧ (1 ≤ y ∧ y < _size_force_1 - 1)
          ∧ (1 ≤ z ∧ z < _size_force_2 - 1) →
        (∀ q', pdfs' (x - cx q') (y - cy q') (z - cz q') q'
          = _data_pdfs (x - cx q') (y - cy q') (z - cz q') q') →
        (∀ a, force' x y z a = _data_force x y z a) →
        kernel_stream pdfs' tmp' _size_force_0 _size_force_1 _size_force_2 x y z q
          = kernel_stream _data_pdfs _data_pdfs_tmp _size_force_0 _size_force_1 _size_force_2
            x y z q
        ∧ kernel_streamCollide sqrt philox_double2 force' pdfs' tmp'
            _size_force_0 _size_force_1 _size_force_2 block_offset_0 block_offset_1
            block_offset_2 kT omega_bulk omega_even omega_odd omega_shear seed time_step x y z q
          = kernel_streamCollide sqrt philox_double2 _data_force _data_pdfs _data_pdfs_tmp
            _size_force_0 _size_force_1 _size_force_2 block_offset_0 block_offset_1
            block_offset_2 kT omega_bulk omega_even omega_odd omega_shear seed time_step x y z q)
    ∧ ((Sweep.stream block g).pdfs_tmp.data = block.pdfs.data
      ∧ (Sweep.stream block g).lm = block.lm
      ∧ (Sweep.streamCollide sqrt philox_double2 block g).pdfs_tmp.data = block.pdfs.data
      ∧ (Sweep.streamCollide sqrt philox_double2 block g).lm = block.lm)
    ∧ (kernel_collide sqrt philox_double2 _data_force _data_pdfs
          _size_force_0 _size_force_1 _size_force_2 block_offset_0 block_offset_1 block_offset_2
          kT omega_bulk omega_even omega_odd omega_shear seed time_step x y z q
      = if (0 ≤ x ∧ x < _size_force_0) ∧ (0 ≤ y ∧ y < _size_force_1) ∧ (0 ≤ z ∧ z < _size_force_2)
        then kernel_collide.values ⟨sqrt, philox_double2, _data_force, _data_pdfs,
          block_offset_0, block_offset_1, block_offset_2,
          kT, omega_bulk, omega_even, omega_odd, omega_shear, seed, time_step, x, y, z⟩ q
        else _data_pdfs x y z q)
    ∧ (∀ (force' : ForceField K) (pdfs' : PdfField K),
        (∀ q', pdfs' x y z q' = _data_pdfs x y z q') →
        (∀ a, force' x y z a = _data_force x y z a) →
        kernel_collide sqrt philox_double2 force' pdfs'
            _size_force_0 _size_force_1 _size_force_2 block_offset_0 block_offset_1
            block_offset_2 kT omega_bulk omega_even omega_odd omega_shear seed time_step x y z q
          = kernel_collide sqrt philox_double2 _data_force _data_pdfs
            _size_force_0 _size_force_1 _size_force_2 block_offset_0 block_offset_1
            block_offset_2 kT omega_bulk omega_even omega_odd omega_shear seed time_step x y z q)
    := by
  refine ⟨?_, ?_, ?_, ⟨rfl, rfl, rfl, rfl⟩, ?_, ?_⟩
  · rw [kernel_stream_apply, kernel_stream.values_eq]
  · rw [kernel_streamCollide_apply]
  · intro force' pdfs' tmp' h hp hF
    constructor
    · rw [kernel_stream_apply, kernel_stream_apply, if_pos h, if_pos h, kernel_stream.values_eq,
        kernel_stream.values_eq]
      exact hp q
    · rw [kernel_streamCollide_apply, kernel_streamCollide_apply, if_pos h, if_pos h,
        kernel_streamCollide.values_pull, kernel_streamCollide.values_pull]
      refine congrFun (kernel_collide.values_eq_of_reads _ _ ?_ ?_ ?_ ?_ ?_ ?_ ?h_pdfs ?h_force
        ?_ ?_ ?_ ?_ ?_ ?_ ?_ ?_) q
      case h_pdfs =>
        intro q'
        show kernel_stream.values pdfs' x y z q' = kernel_stream.values _data_pdfs x y z q'
        rw [kernel_stream.values_eq, kernel_stream.values_eq]
        exact hp q'
      case h_force =>
        intro a
        exact hF a
      all_goals rfl
  · rw [kernel_collide_apply]
  · intro force' pdfs' hp hF
    rw [kernel_collide_apply, kernel_collide_apply]
    split
    · refine congrFun (kernel_collide.values_eq_of_reads _ _ ?_ ?_ ?_ ?_ ?_ ?_ ?h_pdfs ?h_force
        ?_ ?_ ?_ ?_ ?_ ?_ ?_ ?_) q
      case h_pdfs =>
        intro q'
        exact hp q'
      case h_force =>
        intro a
        exact hF a
      all_goals rfl
    · exact hp q

open FluctuatingMRTLatticeModel in
theorem no_read_after_write_hazard_witness :
    (((1 : Int) ≤ 1 ∧ (1 : Int) < 3 - 1) ∧ ((1 : Int) ≤ 1 ∧ (1 : Int) < 3 - 1)
      ∧ ((1 : Int) ≤ 1 ∧ (1 : Int) < 3 - 1))
    ∧ Example.pdfs1 1 1 1 0 ≠ Example.pdfs0 1 1 1 0
    ∧ kernel_streamCollide Example.sqrt0 Example.philoxA Example.forceY Example.pdfsC
          Example.pdfs1 3 3 3 0 0 0 1 1 1 1 1 0 0 1 1 1 0
        = kernel_streamCollide Example.sqrt0 Example.philoxA Example.forceY Example.pdfsC
          Example.pdfs0 3 3 3 0 0 0 1 1 1 1 1 0 0 1 1 1 0 :=
  ⟨by decide, by decide,
    ((no_read_after_write_hazard Example.sqrt0 Example.philoxA Example.forceY Example.pdfsC
      Example.pdfs0 3 3 3 0 0 0 1 1 1 1 1 0 0 Example.blockY 0 1 1 1 0).2.2.1
      Example.forceY Example.pdfsC Example.pdfs1 (by decide) (fun _ => rfl) (fun _ => rfl)).2⟩

open FluctuatingMRTLatticeModel in
/-- C24 (shear relaxation with Guo forcing).  With `kT = 0` (and `sqrt 0 = 0`) and
`rho = sum_q f_q` not zero, for each pair of different axes `(a, b)` the off-diagonal stress
`P_ab = sum_q c_qa c_qb f_q` of the populations written by `kernel_collide` at a cell of the
box is `(1 - omega_shear) P_ab + omega_shear rho u_a u_b
+ (1 - omega_shear / 2) (u_a F_b + u_b F_a)` with `u = (sum_q c_q f_q) / rho`, for all
populations, forces and values of the other three rates. -/
theorem shear_relaxation_guo_forcing [CharZero K] (sqrt : K → K) (hsqrt : sqrt 0 = 0)
    (philox_double2 : Philox K) (_data_force : ForceField K) (_data_pdfs : PdfField K)
    (_size_force_0 _size_force_1 _size_force_2 : Int)
    (block_offset_0 block_offset_1 block_offset_2 : Nat)
    (omega_bulk omega_even omega_odd omega_shear : K) (seed time_step : Nat) (x y z : Int)
    (h : (0 ≤ x ∧ x < _size_force_0) ∧ (0 ≤ y ∧ y < _size_force_1) ∧ (0 ≤ z ∧ z < _size_force_2))
    (rho : K) (u : Fin 3 → K) (hrho : rho = ∑ q, _data_pdfs x y z q) (hne : rho ≠ 0)
    (hu : ∀ a, u a = (∑ q, (cvec q a : K) * _data_pdfs x y z q) / rho)
    (a b : Fin 3) (hab : a ≠ b) :
    ∑ q, (cvec q a : K) * (cvec q b : K) * kernel_collide sqrt philox_double2 _data_force
        _data_pdfs _size_force_0 _size_force_1 _size_force_2 block_offset_0 block_offset_1
        block_offset_2 0 omega_bulk omega_even omega_odd omega_shear seed time_step x y z q
      = (1 - omega_shear) * ∑ q, (cvec q a : K) * (cvec q b : K) * _data_pdfs x y z q
        + omega_shear * rho * u a * u b
        + (1 - omega_shear / 2) * (u a * _data_force x y z b + u b * _data_force x y z a) := by
  simp only [kernel_collide_apply, if_pos h]
  have hr : kernel_collide.rho ⟨sqrt, philox_double2, _data_force, _data_pdfs, block_offset_0,
      block_offset_1, block_offset_2, 0, omega_bulk, omega_even, omega_odd, omega_shear, seed,
      time_step, x, y, z⟩ = rho := (kernel_collide.rho_eq_sum _).trans hrho.symm
  have hU : ∀ c, kernel_collide.u ⟨sqrt, philox_double2, _data_force, _data_pdfs,
      block_offset_0, block_offset_1, block_offset_2, 0, omega_bulk, omega_even, omega_odd,
      omega_shear, seed, time_step, x, y, z⟩ c = u c := by
    intro c
    rw [kernel_collide.u_eq, hr]
    exact (hu c).symm
  have hm := kernel_collide.shear_moment ⟨sqrt, philox_double2, _data_force, _data_pdfs,
      block_offset_0, block_offset_1, block_offset_2, 0, omega_bulk, omega_even, omega_odd,
      omega_shear, seed, time_step, x, y, z⟩ rfl hsqrt a b hab
  rw [hU a, hU b, hr] at hm
  exact hm

open FluctuatingMRTLatticeModel in
theorem shear_relaxation_guo_forcing_witness :
    (Example.sqrt0 0 = 0
      ∧ (((0 : Int) ≤ 1 ∧ (1 : Int) < 3) ∧ ((0 : Int) ≤ 1 ∧ (1 : Int) < 3)
        ∧ ((0 : Int) ≤ 1 ∧ (1 : Int) < 3))
      ∧ (2 : ℚ) = ∑ q, Example.pdfsE 1 1 1 q ∧ (2 : ℚ) ≠ 0
      ∧ (∀ a, Example.uE a = (∑ q, (cvec q a : ℚ) * Example.pdfsE 1 1 1 q) / 2)
      ∧ (0 : Fin 3) ≠ 1)
    ∧ ∑ q, (cvec q 0 : ℚ) * (cvec q 1 : ℚ) * kernel_collide Example.sqrt0 Example.philoxA
        Example.forceY Example.pdfsE 3 3 3 0 0 0 0 (1 / 2) (1 / 3) (1 / 5) (1 / 4) 0 0 1 1 1 q
      = (1 - 1 / 4) * ∑ q, (cvec q 0 : ℚ) * (cvec q 1 : ℚ) * Example.pdfsE 1 1 1 q
        + 1 / 4 * 2 * Example.uE 0 * Example.uE 1
        + (1 - 1 / 4 / 2)
          * (Example.uE 0 * Example.forceY 1 1 1 1 + Example.uE 1 * Example.forceY 1 1 1 0) :=
  ⟨⟨rfl, by decide, Example.pdfsE_sum, by norm_num, Example.uE_eq, by decide⟩,
    shear_relaxation_guo_forcing Example.sqrt0 rfl Example.philoxA Example.forceY
      Example.pdfsE 3 3 3 0 0 0 (1 / 2) (1 / 3) (1 / 5) (1 / 4) 0 0 1 1 1 (by decide) 2
      Example.uE Example.pdfsE_sum (by norm_num) Example.uE_eq 0 1 (by decide)⟩

open FluctuatingMRTLatticeModel in
/-- C25 (bulk relaxation).  With `kT = 0` (and `sqrt 0 = 0`) and `rho = sum_q f_q` not zero,
the trace `T = sum_q |c_q|^2 f_q` of the populations written by `kernel_collide` at a cell of
the box is `T - omega_bulk (T - rho (1 + |u|^2)) + (2 - omega_bulk) (u . F)` with
`u = (sum_q c_q f_q) / rho`, for all populations, forces and values of `omega_shear`,
`omega_odd`, `omega_even` (exact arithmetic, decimal coefficients read as the fractions they
round): the bulk stress relaxes with `omega_bulk` only. -/
theorem bulk_relaxation [CharZero K] (sqrt : K → K) (hsqrt : sqrt 0 = 0)
    (philox_double2 : Philox K) (_data_force : ForceField K) (_data_pdfs : PdfField K)
    (_size_force_0 _size_force_1 _size_force_2 : Int)
    (block_offset_0 block_offset_1 block_offset_2 : Nat)
    (omega_bulk omega_even omega_odd omega_shear : K) (seed time_step : Nat) (x y z : Int)
    (h : (0 ≤ x ∧ x < _size_force_0) ∧ (0 ≤ y ∧ y < _size_force_1) ∧ (0 ≤ z ∧ z < _size_force_2))
    (rho : K) (u : Fin 3 → K) (hrho : rho = ∑ q, _data_pdfs x y z q) (hne : rho ≠ 0)
    (hu : ∀ a, u a = (∑ q, (cvec q a : K) * _data_pdfs x y z q) / rho) :
    ∑ q, (∑ a, (cvec q a : K) ^ 2) * kernel_collide sqrt philox_double2 _data_force
        _data_pdfs _size_force_0 _size_force_1 _size_force_2 block_offset_0 block_offset_1
        block_offset_2 0 omega_bulk omega_even omega_odd omega_shear seed time_step x y z q
      = ∑ q, (∑ a, (cvec q a : K) ^ 2) * _data_pdfs x y z q
        - omega_bulk * (∑ q, (∑ a, (cvec q a : K) ^ 2) * _data_pdfs x y z q
            - rho * (1 + ∑ a, u a ^ 2))
        + (2 - omega_bulk) * ∑ a, u a * _data_force x y z a := by
  simp only [kernel_collide_apply, if_pos h]
  have hr : kernel_collide.rho ⟨sqrt, philox_double2, _data_force, _data_pdfs, block_offset_0,
      block_offset_1, block_offset_2, 0, omega_bulk, omega_even, omega_odd, omega_shear, seed,
      time_step, x, y, z⟩ = rho := (kernel_collide.rho_eq_sum _).trans hrho.symm
  have hU : kernel_collide.u ⟨sqrt, philox_double2, _data_force, _data_pdfs,
      block_offset_0, block_offset_1, block_offset_2, 0, omega_bulk, omega_even, omega_odd,
      omega_shear, seed, time_step, x, y, z⟩ = u := by
    funext c
    rw [kernel_collide.u_eq, hr]
    exact (hu c).symm
  have hm := kernel_collide.bulk_moment_sum ⟨sqrt, philox_double2, _data_force, _data_pdfs,
      block_offset_0, block_offset_1, block_offset_2, 0, omega_bulk, omega_even, omega_odd,
      omega_shear, seed, time_step, x, y, z⟩ rfl hsqrt
  rw [hU, hr] at hm
  exact hm

open FluctuatingMRTLatticeModel in
theorem bulk_relaxation_witness :
    (Example.sqrt0 0 = 0
      ∧ (((0 : Int) ≤ 1 ∧ (1 : Int) < 3) ∧ ((0 : Int) ≤ 1 ∧ (1 : Int) < 3)
        ∧ ((0 : Int) ≤ 1 ∧ (1 : Int) < 3))
      ∧ (2 : ℚ) = ∑ q, Example.pdfsE 1 1 1 q ∧ (2 : ℚ) ≠ 0
      ∧ (∀ a, Example.uE a = (∑ q, (cvec q a : ℚ) * Example.pdfsE 1 1 1 q) / 2))
    ∧ ∑ q, (∑ a, (cvec q a : ℚ) ^ 2) * kernel_collide Example.sqrt0 Example.philoxA
        Example.forceY Example.pdfsE 3 3 3 0 0 0 0 (1 / 2) (1 / 3) (1 / 5) (1 / 4) 0 0 1 1 1 q
      = ∑ q, (∑ a, (cvec q a : ℚ) ^ 2) * Example.pdfsE 1 1 1 q
        - 1 / 2 * (∑ q, (∑ a, (cvec q a : ℚ) ^ 2) * Example.pdfsE 1 1 1 q
            - 2 * (1 + ∑ a, Example.uE a ^ 2))
        + (2 - 1 / 2) * ∑ a, Example.uE a * Example.forceY 1 1 1 a :=
  ⟨⟨rfl, by decide, Example.pdfsE_sum, by norm_num, Example.uE_eq⟩,
    bulk_relaxation Example.sqrt0 rfl Example.philoxA Example.forceY
      Example.pdfsE 3 3 3 0 0 0 (1 / 2) (1 / 3) (1 / 5) (1 / 4) 0 0 1 1 1 (by decide) 2
      Example.uE Example.pdfsE_sum (by norm_num) Example.uE_eq⟩

open FluctuatingMRTLatticeModel in
/-- C27 (RNG draws per site).  For each cell the loop body of `kernel_collide` calls the
generator once for each mode index `k = 0, ..., 7`, all eight calls with the same time step,
coordinates and seed, which gives sixteen draws (`draw16`).  Moment `j` of the fifteen
non-conserved moments is noised by draw number `j`, so each moment has a draw of its own and
none has the sixteenth; the values written do not change when the sixteenth draw (the second
value of mode index 7) is replaced by any other value `v`, the other fifteen draws being kept.
(`sqrt 0 = 0` is the only fact used about `sqrt`.) -/
theorem rng_draws_per_site [CharZero K] (s : Site K) :
    (∀ k : Fin 8,
      kernel_collide.draws s k
        = s.philox_double2 s.time_step (u32 ((s.block_offset_0 : Int) + s.ctr_0))
            (u32 ((s.block_offset_1 : Int) + s.ctr_1))
            (u32 ((s.block_offset_2 : Int) + s.ctr_2)) k s.seed)
    ∧ (∀ j : Fin 15, kernel_collide.noiseDraw s j = kernel_collide.draw16 s j.castSucc
        ∧ j.castSucc ≠ Fin.last 15)
    ∧ (s.sqrt 0 = 0 → ∀ j : Fin 15,
        ∑ q, (noiseMoment j q : K) * kernel_collide.values s q
          = ∑ q, (noiseMoment j q : K) * kernel_collide.values (quiet s) q
            + (kernel_collide.draw16 s j.castSucc - 1 / 2) * noiseConst j
              * s.sqrt (s.kT * (∑ q, s._data_pdfs s.ctr_0 s.ctr_1 s.ctr_2 q)
                  * (1 - (1 - noiseRate s j) ^ 2)))
    ∧ (∀ v : K,
        kernel_collide.draw16
            ⟨s.sqrt, replaceLastDraw s.philox_double2 v, s._data_force, s._data_pdfs,
              s.block_offset_0, s.block_offset_1, s.block_offset_2, s.kT, s.omega_bulk,
              s.omega_even, s.omega_odd, s.omega_shear, s.seed, s.time_step, s.ctr_0, s.ctr_1,
              s.ctr_2⟩ (Fin.last 15) = v
        ∧ (∀ j : Fin 15,
            kernel_collide.draw16
              ⟨s.sqrt, replaceLastDraw s.philox_double2 v, s._data_force, s._data_pdfs,
                s.block_offset_0, s.block_offset_1, s.block_offset_2, s.kT, s.omega_bulk,
                s.omega_even, s.omega_odd, s.omega_shear, s.seed, s.time_step, s.ctr_0,
                s.ctr_1, s.ctr_2⟩ j.castSucc
            = kernel_collide.draw16 s j.castSucc)
        ∧ kernel_collide.values
            ⟨s.sqrt, replaceLastDraw s.philox_double2 v, s._data_force, s._data_pdfs,
              s.block_offset_0, s.block_offset_1, s.block_offset_2, s.kT, s.omega_bulk,
              s.omega_even, s.omega_odd, s.omega_shear, s.seed, s.time_step, s.ctr_0, s.ctr_1,
              s.ctr_2⟩
          = kernel_collide.values s) := by
  have hd : ∀ j : Fin 15, kernel_collide.noiseDraw s j = kernel_collide.draw16 s j.castSucc := by
    intro j
    fin_cases j <;> rfl
  refine ⟨?_, ?_, ?_, ?_⟩
  · exact kernel_collide.draws_eq s
  · intro j
    refine ⟨hd j, ?_⟩
    revert j
    decide
  · intro hsqrt j
    rw [← hd j]
    exact kernel_collide.noise_moment s hsqrt j
  · intro v
    refine ⟨?_, ?_, kernel_collide.values_replaceLastDraw s v⟩
    · rw [kernel_collide.draw16_last]
      show (replaceLastDraw s.philox_double2 v _ _ _ _ 7 _).2 = v
      rfl
    · intro j
      refine kernel_collide.draw16_replaceLastDraw s v j.castSucc ?_
      have hj := j.isLt
      show j.val ≠ 15
      omega

open FluctuatingMRTLatticeModel in
theorem rng_draws_per_site_witness :
    Example.siteA.sqrt 0 = 0 ∧
    ∑ q, (noiseMoment 5 q : ℚ) * kernel_collide.values Example.siteA q
      = ∑ q, (noiseMoment 5 q : ℚ) * kernel_collide.values (quiet Example.siteA) q
        + (kernel_collide.draw16 Example.siteA (Fin.castSucc 5) - 1 / 2) * noiseConst 5
          * Example.siteA.sqrt (Example.siteA.kT
              * (∑ q, Example.siteA._data_pdfs Example.siteA.ctr_0 Example.siteA.ctr_1
                  Example.siteA.ctr_2 q)
              * (1 - (1 - noiseRate Example.siteA 5) ^ 2)) :=
  ⟨rfl, (rng_draws_per_site Example.siteA).2.2.1 rfl 5⟩

open FluctuatingMRTLatticeModel in
/-- C29 (the fused kernel is pull-streaming followed by collision).  For every source buffer,
force field and rates, at every interior cell `kernel_streamCollide` writes the populations
that the loop body of `kernel_collide` yields for the nineteen values `kernel_stream` writes at
that cell and the force stored at that cell, whenever the two loop bodies receive the same
eight pairs of draws at the cell; with `kT = 0` (and `sqrt 0 = 0`) this holds whatever the
generators, seeds, time steps and block offsets. -/
theorem fused_is_stream_then_collide (sqrt : K → K) (philox_double2 philox_double2' : Philox K)
    (_data_force : ForceField K) (_data_pdfs _data_pdfs_tmp _data_pdfs_tmp' : PdfField K)
    (_size_force_0 _size_force_1 _size_force_2 : Int)
    (block_offset_0 block_offset_1 block_offset_2 : Nat)
    (block_offset_0' block_offset_1' block_offset_2' : Nat)
    (kT omega_bulk omega_even omega_odd omega_shear : K) (seed time_step seed' time_step' : Nat)
    (x y z : Int)
    (h : (1 ≤ x ∧ x < _size_force_0 - 1) ∧ (1 ≤ y ∧ y < _size_force_1 - 1)
      ∧ (1 ≤ z ∧ z < _size_force_2 - 1)) :
    ((∀ k, kernel_collide.draws ⟨sqrt, philox_double2', _data_force,
          kernel_stream _data_pdfs _data_pdfs_tmp' _size_force_0 _size_force_1 _size_force_2,
          block_offset_0', block_offset_1', block_offset_2', kT, omega_bulk, omega_even,
          omega_odd, omega_shear, seed', time_step', x, y, z⟩ k
        = kernel_streamCollide.draws ⟨sqrt, philox_double2, _data_force, _data_pdfs,
          block_offset_0, block_offset_1, block_offset_2, kT, omega_bulk, omega_even,
          omega_odd, omega_shear, seed, time_step, x, y, z⟩ k) →
      ∀ q, kernel_streamCollide sqrt philox_double2 _data_force _data_pdfs _data_pdfs_tmp
          _size_force_0 _size_force_1 _size_force_2 block_offset_0 block_offset_1 block_offset_2
          kT omega_bulk omega_even omega_odd omega_shear seed time_step x y z q
        = kernel_collide.values ⟨sqrt, philox_double2', _data_force,
          kernel_stream _data_pdfs _data_pdfs_tmp' _size_force_0 _size_force_1 _size_force_2,
          block_offset_0', block_offset_1', block_offset_2', kT, omega_bulk, omega_even,
          omega_odd, omega_shear, seed', time_step', x, y, z⟩ q)
    ∧ (kT = 0 → sqrt 0 = 0 →
      ∀ q, kernel_streamCollide sqrt philox_double2 _data_force _data_pdfs _data_pdfs_tmp
          _size_force_0 _size_force_1 _size_force_2 block_offset_0 block_offset_1 block_offset_2
          kT omega_bulk omega_even omega_odd omega_shear seed time_step x y z q
        = kernel_collide.values ⟨sqrt, philox_double2', _data_force,
          kernel_stream _data_pdfs _data_pdfs_tmp' _size_force_0 _size_force_1 _size_force_2,
          block_offset_0', block_offset_1', block_offset_2', kT, omega_bulk, omega_even,
          omega_odd, omega_shear, seed', time_step', x, y, z⟩ q) := by
  have hp : ∀ q', kernel_stream.values _data_pdfs x y z q'
      = kernel_stream _data_pdfs _data_pdfs_tmp' _size_force_0 _size_force_1 _size_force_2
        x y z q' := by
    intro q'
    rw [kernel_stream_apply, if_pos h]
  constructor
  · intro hd q
    rw [kernel_streamCollide_apply, if_pos h, kernel_streamCollide.values_pull]
    exact congrFun (kernel_collide.values_eq_of_reads
      (pulled ⟨sqrt, philox_double2, _data_force, _data_pdfs, block_offset_0, block_offset_1,
        block_offset_2, kT, omega_bulk, omega_even, omega_odd, omega_shear, seed, time_step,
        x, y, z⟩)
      ⟨sqrt, philox_double2', _data_force,
        kernel_stream _data_pdfs _data_pdfs_tmp' _size_force_0 _size_force_1 _size_force_2,
        block_offset_0', block_offset_1', block_offset_2', kT, omega_bulk, omega_even,
        omega_odd, omega_shear, seed', time_step', x, y, z⟩
      rfl rfl rfl rfl rfl rfl hp
      (fun _ => rfl) (hd 0).symm (hd 1).symm (hd 2).symm (hd 3).symm (hd 4).symm (hd 5).symm
      (hd 6).symm (hd 7).symm) q
  · intro hkT hsqrt q
    subst hkT
    rw [kernel_streamCollide_apply, if_pos h, kernel_streamCollide.values_pull]
    exact congrFun (kernel_collide.values_eq_of_kT_zero
      (pulled ⟨sqrt, philox_double2, _data_force, _data_pdfs, block_offset_0, block_offset_1,
        block_offset_2, 0, omega_bulk, omega_even, omega_odd, omega_shear, seed, time_step,
        x, y, z⟩)
      ⟨sqrt, philox_double2', _data_force,
        kernel_stream _data_pdfs _data_pdfs_tmp' _size_force_0 _size_force_1 _size_force_2,
        block_offset_0', block_offset_1', block_offset_2', 0, omega_bulk, omega_even,
        omega_odd, omega_shear, seed', time_step', x, y, z⟩
      rfl rfl hsqrt rfl rfl rfl rfl rfl hp (fun _ => rfl)) q

open FluctuatingMRTLatticeModel in
theorem fused_is_stream_then_collide_witness :
    (((1 : Int) ≤ 1 ∧ (1 : Int) < 3 - 1) ∧ ((1 : Int) ≤ 1 ∧ (1 : Int) < 3 - 1)
      ∧ ((1 : Int) ≤ 1 ∧ (1 : Int) < 3 - 1))
    ∧ (∀ k, kernel_collide.draws ⟨Example.sqrt0, Example.philoxC, Example.forceY,
          kernel_stream Example.pdfsC Example.pdfs1 3 3 3, 0, 0, 0, 1, 1, 1, 1, 1, 3, 4,
          1, 1, 1⟩ k
        = kernel_streamCollide.draws ⟨Example.sqrt0, Example.philoxC, Example.forceY,
          Example.pdfsC, 0, 0, 0, 1, 1, 1, 1, 1, 3, 4, 1, 1, 1⟩ k)
    ∧ (∀ q, kernel_streamCollide Example.sqrt0 Example.philoxC Example.forceY Example.pdfsC
          Example.pdfs0 3 3 3 0 0 0 1 1 1 1 1 3 4 1 1 1 q
        = kernel_collide.values ⟨Example.sqrt0, Example.philoxC, Example.forceY,
          kernel_stream Example.pdfsC Example.pdfs1 3 3 3, 0, 0, 0, 1, 1, 1, 1, 1, 3, 4,
          1, 1, 1⟩ q)
    ∧ ((0 : ℚ) = 0 ∧ Example.sqrt0 0 = 0)
    ∧ (∀ q, kernel_streamCollide Example.sqrt0 Example.philoxA Example.forceY Example.pdfsC
          Example.pdfs0 3 3 3 0 0 0 0 1 1 1 1 3 4 1 1 1 q
        = kernel_collide.values ⟨Example.sqrt0, Example.philoxB, Example.forceY,
          kernel_stream Example.pdfsC Example.pdfs1 3 3 3, 5, 6, 7, 0, 1, 1, 1, 1, 8, 9,
          1, 1, 1⟩ q) :=
  ⟨by decide, fun _ => rfl,
    (fused_is_stream_then_collide Example.sqrt0 Example.philoxC Example.philoxC Example.forceY
      Example.pdfsC Example.pdfs0 Example.pdfs1 3 3 3 0 0 0 0 0 0 1 1 1 1 1 3 4 3 4 1 1 1
      (by decide)).1 (fun _ => rfl),
    ⟨rfl, rfl⟩,
    (fused_is_stream_then_collide Example.sqrt0 Example.philoxA Example.philoxB Example.forceY
      Example.pdfsC Example.pdfs0 Example.pdfs1 3 3 3 0 0 0 5 6 7 0 1 1 1 1 3 4 8 9 1 1 1
      (by decide)).2 rfl rfl⟩

open FluctuatingMRTLatticeModel in
/-- C30 (RNG counters of the fused and the separate sweep).  For a cell `(x, y, z)` of the swept
region and `numberOfGhostLayersToInclude = g`, `Sweep::collide` writes the value of the loop
body of `kernel_collide` with the counters `x + g`, `y + g`, `z + g` (data pointer at cell
`-g`, loops from 0) and so passes the generator the coordinates `block_offset + x + g`, while
`Sweep::streamCollide` writes the value of the loop body of `kernel_streamCollide` with the
counters `x + g + 1`, ... (data pointer at cell `-g - 1`, loops from 1) and passes
`block_offset + x + g + 1`.  For the same cell, seed and time step the coordinates passed
differ by exactly 1 on every axis; as `uint32_t` the second is the successor of the first
modulo `2^32`. -/
theorem rng_counters_fused_vs_separate (sqrt : K → K) (philox_double2 : Philox K)
    (block : Block K) (g : Nat) (x y z : Int)
    (h : (-(g : Int) ≤ x ∧ x < block.lm.force_.xSize + g)
      ∧ (-(g : Int) ≤ y ∧ y < block.lm.force_.ySize + g)
      ∧ (-(g : Int) ≤ z ∧ z < block.lm.force_.zSize + g)) :
    (∀ q, (Sweep.collide sqrt philox_double2 block g).pdfs.data x y z q
        = kernel_collide.values (Sweep.collide_site sqrt philox_double2 block g x y z) q)
    ∧ (∀ q, (Sweep.streamCollide sqrt philox_double2 block g).pdfs.data x y z q
        = kernel_streamCollide.values
            (Sweep.streamCollide_site sqrt philox_double2 block g x y z) q)
    ∧ (∀ k : Fin 8,
        kernel_collide.draws (Sweep.collide_site sqrt philox_double2 block g x y z) k
          = philox_double2 block.lm.time_step_
              (u32 ((block.lm.block_offset_0_ : Int) + (x + g)))
              (u32 ((block.lm.block_offset_1_ : Int) + (y + g)))
              (u32 ((block.lm.block_offset_2_ : Int) + (z + g))) k block.lm.seed_)
    ∧ (∀ k : Fin 8,
        kernel_streamCollide.draws
            (Sweep.streamCollide_site sqrt philox_double2 block g x y z) k
          = philox_double2 block.lm.time_step_
              (u32 ((block.lm.block_offset_0_ : Int) + (x + g + 1)))
              (u32 ((block.lm.block_offset_1_ : Int) + (y + g + 1)))
              (u32 ((block.lm.block_offset_2_ : Int) + (z + g + 1))) k block.lm.seed_)
    ∧ (((block.lm.block_offset_0_ : Int) + (x + g + 1))
          - ((block.lm.block_offset_0_ : Int) + (x + g)) = 1
      ∧ ((block.lm.block_offset_1_ : Int) + (y + g + 1))
          - ((block.lm.block_offset_1_ : Int) + (y + g)) = 1
      ∧ ((block.lm.block_offset_2_ : Int) + (z + g + 1))
          - ((block.lm.block_offset_2_ : Int) + (z + g)) = 1)
    ∧ (u32 ((block.lm.block_offset_0_ : Int) + (x + g + 1))
          = (u32 ((block.lm.block_offset_0_ : Int) + (x + g)) + 1) % 4294967296
      ∧ u32 ((block.lm.block_offset_1_ : Int) + (y + g + 1))
          = (u32 ((block.lm.block_offset_1_ : Int) + (y + g)) + 1) % 4294967296
      ∧ u32 ((block.lm.block_offset_2_ : Int) + (z + g + 1))
          = (u32 ((block.lm.block_offset_2_ : Int) + (z + g)) + 1) % 4294967296) := by
  have hs : ∀ c : Int, u32 (c + 1) = (u32 c + 1) % 4294967296 := by
    intro c
    simp only [u32]
    omega
  refine ⟨?_, ?_, ?_, ?_, ⟨by omega, by omega, by omega⟩, ⟨?_, ?_, ?_⟩⟩
  · intro q
    rw [Sweep.collide_data, if_pos h]
    rfl
  · intro q
    rw [Sweep.streamCollide_data sqrt philox_double2 block g x y z q h]
    rfl
  · intro k
    fin_cases k <;> rfl
  · intro k
    fin_cases k <;> rfl
  · rw [← hs]
    congr 1
    omega
  · rw [← hs]
    congr 1
    omega
  · rw [← hs]
    congr 1
    omega

open FluctuatingMRTLatticeModel in
theorem rng_counters_fused_vs_separate_witness :
    ((-((0 : Nat) : Int) ≤ 0 ∧ (0 : Int) < Example.blockY.lm.force_.xSize + ((0 : Nat) : Int))
      ∧ (-((0 : Nat) : Int) ≤ 0 ∧ (0 : Int) < Example.blockY.lm.force_.ySize + ((0 : Nat) : Int))
      ∧ (-((0 : Nat) : Int) ≤ 0
        ∧ (0 : Int) < Example.blockY.lm.force_.zSize + ((0 : Nat) : Int)))
    ∧ (∀ k : Fin 8,
        kernel_collide.draws
            (Sweep.collide_site Example.sqrt0 Example.philoxC Example.blockY 0 0 0 0) k
          = Example.philoxC 0 0 0 0 k 0)
    ∧ (∀ k : Fin 8,
        kernel_streamCollide.draws
            (Sweep.streamCollide_site Example.sqrt0 Example.philoxC Example.blockY 0 0 0 0) k
          = Example.philoxC 0 1 1 1 k 0) :=
  ⟨by decide,
    (rng_counters_fused_vs_separate Example.sqrt0 Example.philoxC Example.blockY 0 0 0 0
      (by decide)).2.2.1,
    (rng_counters_fused_vs_separate Example.sqrt0 Example.philoxC Example.blockY 0 0 0 0
      (by decide)).2.2.2.1⟩

open FluctuatingMRTLatticeModel in
/-- C32 (index safety of the scalar kernels).  For all sizes, the scalar `kernel_stream` and
`kernel_streamCollide` read the source buffer only at indices in `[0, size-1]` on each axis
and read the force and write the destination only at indices in `[1, size-2]`:
their results are the same for sources that agree on `[0, size-1]^3` and forces that agree on
`[1, size-2]^3`, and every destination cell outside `[1, size-2]^3` keeps its content.
`kernel_collide` touches indices in `[0, size-1]` only: inside that box its result is the same
for populations and forces that agree there, and outside it leaves the populations alone. -/
theorem scalar_kernel_index_safety (sqrt : K → K) (philox_double2 : Philox K)
    (_data_force force_1 force_2 : ForceField K) (_data_pdfs pdfs_1 _data_pdfs_tmp : PdfField K)
    (size_0 size_1 size_2 : Int) (block_offset_0 block_offset_1 block_offset_2 : Nat)
    (kT omega_bulk omega_even omega_odd omega_shear : K) (seed time_step : Nat)
    (hp : ∀ (x y z : Int) (q : Fin 19),
      (0 ≤ x ∧ x ≤ size_0 - 1) ∧ (0 ≤ y ∧ y ≤ size_1 - 1) ∧ (0 ≤ z ∧ z ≤ size_2 - 1) →
      pdfs_1 x y z q = _data_pdfs x y z q)
    (hF : ∀ (x y z : Int) (a : Fin 3),
      (1 ≤ x ∧ x ≤ size_0 - 2) ∧ (1 ≤ y ∧ y ≤ size_1 - 2) ∧ (1 ≤ z ∧ z ≤ size_2 - 2) →
      force_1 x y z a = _data_force x y z a)
    (hG : ∀ (x y z : Int) (a : Fin 3),
      (0 ≤ x ∧ x ≤ size_0 - 1) ∧ (0 ≤ y ∧ y ≤ size_1 - 1) ∧ (0 ≤ z ∧ z ≤ size_2 - 1) →
      force_2 x y z a = _data_force x y z a) :
    kernel_stream pdfs_1 _data_pdfs_tmp size_0 size_1 size_2
        = kernel_stream _data_pdfs _data_pdfs_tmp size_0 size_1 size_2
      ∧ kernel_streamCollide sqrt philox_double2 force_1 pdfs_1 _data_pdfs_tmp
          size_0 size_1 size_2 block_offset_0 block_offset_1 block_offset_2
          kT omega_bulk omega_even omega_odd omega_shear seed time_step
        = kernel_streamCollide sqrt philox_double2 _data_force _data_pdfs _data_pdfs_tmp
          size_0 size_1 size_2 block_offset_0 block_offset_1 block_offset_2
          kT omega_bulk omega_even omega_odd omega_shear seed time_step
      ∧ (∀ (x y z : Int) (q : Fin 19),
          ¬ ((1 ≤ x ∧ x ≤ size_0 - 2) ∧ (1 ≤ y ∧ y ≤ size_1 - 2) ∧ (1 ≤ z ∧ z ≤ size_2 - 2)) →
          kernel_stream _data_pdfs _data_pdfs_tmp size_0 size_1 size_2 x y z q
              = _data_pdfs_tmp x y z q
            ∧ kernel_streamCollide sqrt philox_double2 _data_force _data_pdfs _data_pdfs_tmp
                size_0 size_1 size_2 block_offset_0 block_offset_1 block_offset_2
                kT omega_bulk omega_even omega_odd omega_shear seed time_step x y z q
              = _data_pdfs_tmp x y z q)
      ∧ (∀ (x y z : Int) (q : Fin 19),
          (0 ≤ x ∧ x ≤ size_0 - 1) ∧ (0 ≤ y ∧ y ≤ size_1 - 1) ∧ (0 ≤ z ∧ z ≤ size_2 - 1) →
          kernel_collide sqrt philox_double2 force_2 pdfs_1
              size_0 size_1 size_2 block_offset_0 block_offset_1 block_offset_2
              kT omega_bulk omega_even omega_odd omega_shear seed time_step x y z q
            = kernel_collide sqrt philox_double2 _data_force _data_pdfs
              size_0 size_1 size_2 block_offset_0 block_offset_1 block_offset_2
              kT omega_bulk omega_even omega_odd omega_shear seed time_step x y z q)
      ∧ (∀ (x y z : Int) (q : Fin 19),
          ¬ ((0 ≤ x ∧ x ≤ size_0 - 1) ∧ (0 ≤ y ∧ y ≤ size_1 - 1) ∧ (0 ≤ z ∧ z ≤ size_2 - 1)) →
          kernel_collide sqrt philox_double2 _data_force _data_pdfs
              size_0 size_1 size_2 block_offset_0 block_offset_1 block_offset_2
              kT omega_bulk omega_even omega_odd omega_shear seed time_step x y z q
            = _data_pdfs x y z q) := by
  refine ⟨?_, ?_, ?_, ?_, ?_⟩
  · funext x y z q
    rw [kernel_stream_apply, kernel_stream_apply]
    split
    · next h =>
      rw [kernel_stream.values_eq, kernel_stream.values_eq]
      have hb := cvel_bounds q
      exact hp _ _ _ q (by omega)
    · rfl
  · funext x y z q
    rw [kernel_streamCollide_apply, kernel_streamCollide_apply]
    split
    · next h =>
      rw [kernel_streamCollide.values_pull, kernel_streamCollide.values_pull]
      refine congrFun (kernel_collide.values_eq_of_reads _ _ ?_ ?_ ?_ ?_ ?_ ?_ ?h_pdfs ?h_force
        ?_ ?_ ?_ ?_ ?_ ?_ ?_ ?_) q
      case h_pdfs =>
        intro q'
        show kernel_stream.values pdfs_1 x y z q' = kernel_stream.values _data_pdfs x y z q'
        rw [kernel_stream.values_eq, kernel_stream.values_eq]
        have hb := cvel_bounds q'
        exact hp _ _ _ q' (by omega)
      case h_force =>
        intro a
        exact hF x y z a (by omega)
      all_goals rfl
    · rfl
  · intro x y z q h
    rw [kernel_stream_apply, kernel_streamCollide_apply, if_neg (by omega), if_neg (by omega)]
    exact ⟨rfl, rfl⟩
  · intro x y z q h
    rw [kernel_collide_apply, kernel_collide_apply, if_pos (by omega), if_pos (by omega)]
    exact congrFun (kernel_collide.values_eq_of_reads
      ⟨sqrt, philox_double2, force_2, pdfs_1, block_offset_0, block_offset_1, block_offset_2,
        kT, omega_bulk, omega_even, omega_odd, omega_shear, seed, time_step, x, y, z⟩
      ⟨sqrt, philox_double2, _data_force, _data_pdfs, block_offset_0, block_offset_1,
        block_offset_2, kT, omega_bulk, omega_even, omega_odd, omega_shear, seed, time_step,
        x, y, z⟩
      rfl rfl rfl rfl rfl rfl (fun q' => hp x y z q' h) (fun a => hG x y z a h)
      rfl rfl rfl rfl rfl rfl rfl rfl) q
  · intro x y z q h
    rw [kernel_collide_apply, if_neg (by omega)]

open FluctuatingMRTLatticeModel in
theorem scalar_kernel_index_safety_witness :
    (∀ (x y z : Int) (q : Fin 19),
      (0 ≤ x ∧ x ≤ 3 - 1) ∧ (0 ≤ y ∧ y ≤ 3 - 1) ∧ (0 ≤ z ∧ z ≤ 3 - 1) →
      Example.pdfsH x y z q = Example.pdfsC x y z q)
    ∧ (∀ (x y z : Int) (a : Fin 3),
      (1 ≤ x ∧ x ≤ 3 - 2) ∧ (1 ≤ y ∧ y ≤ 3 - 2) ∧ (1 ≤ z ∧ z ≤ 3 - 2) →
      Example.forceH x y z a = Example.forceY x y z a)
    ∧ (∀ (x y z : Int) (a : Fin 3),
      (0 ≤ x ∧ x ≤ 3 - 1) ∧ (0 ≤ y ∧ y ≤ 3 - 1) ∧ (0 ≤ z ∧ z ≤ 3 - 1) →
      Example.forceI x y z a = Example.forceY x y z a)
    ∧ kernel_stream Example.pdfsH Example.pdfs0 3 3 3
        = kernel_stream Example.pdfsC Example.pdfs0 3 3 3
    ∧ kernel_streamCollide Example.sqrt0 Example.philoxA Example.forceH Example.pdfsH
          Example.pdfs0 3 3 3 0 0 0 1 1 1 1 1 0 0
        = kernel_streamCollide Example.sqrt0 Example.philoxA Example.forceY Example.pdfsC
          Example.pdfs0 3 3 3 0 0 0 1 1 1 1 1 0 0 :=
  ⟨fun _ _ _ _ h => if_pos h, fun _ _ _ _ h => if_pos h, fun _ _ _ _ h => if_pos h,
    (scalar_kernel_index_safety Example.sqrt0 Example.philoxA Example.forceY Example.forceH
      Example.forceI Example.pdfsC Example.pdfsH Example.pdfs0 3 3 3 0 0 0 1 1 1 1 1 0 0
      (fun _ _ _ _ h => if_pos h) (fun _ _ _ _ h => if_pos h) (fun _ _ _ _ h => if_pos h)).1,
    (scalar_kernel_index_safety Example.sqrt0 Example.philoxA Example.forceY Example.forceH
      Example.forceI Example.pdfsC Example.pdfsH Example.pdfs0 3 3 3 0 0 0 1 1 1 1 1 0 0
      (fun _ _ _ _ h => if_pos h) (fun _ _ _ _ h => if_pos h)
      (fun _ _ _ _ h => if_pos h)).2.1⟩

/-- C33 (population accessors round-trip).  For every site index and every array `pop` of 19
values, `lb_set_populations(index, pop)` followed by `lb_get_populations(index, out)` gives
`out[i] = pop[i]` for all `i`, and `lb_get_populations` followed by `lb_set_populations` with
the values read leaves `lbfluid` unchanged (exact arithmetic; `lbpar.rho` and `lbmodel.coeff`
the same in both calls). -/
theorem population_accessors_round_trip (lbmodel : lb.LB_Model K) (lbpar : lb.LB_Parameters K)
    (lbfluid : lb.LB_Fluid K) (index : Nat) (pop out : Fin 19 → K) :
    lb.lb_get_populations lbmodel lbpar
        (lb.lb_set_populations lbmodel lbpar lbfluid index pop) index out = pop
      ∧ lb.lb_set_populations lbmodel lbpar lbfluid index
        (lb.lb_get_populations lbmodel lbpar lbfluid index out) = lbfluid := by
  constructor
  · funext i
    rw [lb.lb_get_populations_apply, lb.lb_set_populations_apply, if_pos rfl]
    ring
  · funext i j
    rw [lb.lb_set_populations_apply, lb.lb_get_populations_apply]
    by_cases h : j = index
    · rw [if_pos h, h]
      ring
    · rw [if_neg h]

open bonded_interaction_data in
/-- C34 (maximal bonded cutoff).  With `TABULATED` and `IMMERSED_BOUNDARY` disabled,
`recalc_maximal_cutoff_bonded` sets `max_cut_bonded` to `M` when `bonded_ia_params` holds no
dihedral bond and to `2 * M` when it holds at least one, where `M` is the maximum of 0 and the
per-bond cutoffs (FENE: `r0 + drmax`; harmonic and thermalized-distance: `r_cut` when
`r_cut > 0`; rigid bond: `sqrt(d2)`; other types nothing); hence the result is non-negative,
is at least every bond-length cutoff, and does not depend on the order of the list. -/
theorem maximal_bonded_cutoff {F : Type} [LinearOrderedField F] (C : Config)
    (hT : C.TABULATED = false) (hI : C.IMMERSED_BOUNDARY = false) (sqrt : F → F)
    (bonded_ia_params : List (Bonded_ia_parameters F)) :
    recalc_maximal_cutoff_bonded C sqrt bonded_ia_params
        = (if (∃ b ∈ bonded_ia_params, b.type = C.BONDED_IA_DIHEDRAL) then
            2 * maximal_bond_length_cutoff C sqrt bonded_ia_params
          else maximal_bond_length_cutoff C sqrt bonded_ia_params)
      ∧ 0 ≤ recalc_maximal_cutoff_bonded C sqrt bonded_ia_params
      ∧ (∀ b ∈ bonded_ia_params, ∀ c : F, bond_length_cutoff C sqrt b = some c →
          c ≤ recalc_maximal_cutoff_bonded C sqrt bonded_ia_params)
      ∧ (∀ reordered : List (Bonded_ia_parameters F), bonded_ia_params.Perm reordered →
          recalc_maximal_cutoff_bonded C sqrt reordered
            = recalc_maximal_cutoff_bonded C sqrt bonded_ia_params) := by
  have key : ∀ l : List (Bonded_ia_parameters F),
      recalc_maximal_cutoff_bonded C sqrt l
        = (if (∃ b ∈ l, b.type = C.BONDED_IA_DIHEDRAL) then
            2 * maximal_bond_length_cutoff C sqrt l
          else maximal_bond_length_cutoff C sqrt l) := by
    intro l
    unfold recalc_maximal_cutoff_bonded
    simp only []
    rw [first_loop_eq C hT hI sqrt l 0 (le_refl _),
      max_eq_right (maximal_bond_length_cutoff_nonneg C sqrt l), second_loop_eq C hT]
  have hM := maximal_bond_length_cutoff_nonneg C sqrt bonded_ia_params
  have hle : maximal_bond_length_cutoff C sqrt bonded_ia_params
      ≤ recalc_maximal_cutoff_bonded C sqrt bonded_ia_params := by
    rw [key]
    split
    · linarith
    · exact le_refl _
  refine ⟨key _, le_trans hM hle, ?_, ?_⟩
  · intro b hb c hc
    exact le_trans (le_maximal_bond_length_cutoff C sqrt _ b hb c hc) hle
  · intro reordered hperm
    rw [key, key, maximal_bond_length_cutoff_perm C sqrt _ _ hperm]
    have hex : (∃ b ∈ reordered, b.type = C.BONDED_IA_DIHEDRAL)
        ↔ (∃ b ∈ bonded_ia_params, b.type = C.BONDED_IA_DIHEDRAL) :=
      ⟨fun ⟨b, hb, e⟩ => ⟨b, hperm.mem_iff.mpr hb, e⟩,
        fun ⟨b, hb, e⟩ => ⟨b, hperm.mem_iff.mp hb, e⟩⟩
    simp only [hex]

open bonded_interaction_data in
theorem maximal_bonded_cutoff_witness :
    Example.configE.TABULATED = false ∧ Example.configE.IMMERSED_BOUNDARY = false
      ∧ recalc_maximal_cutoff_bonded Example.configE Example.sqrtE
          [Example.bondE 0, Example.bondE 6, Example.bondE 1]
        = (if (∃ b ∈ [Example.bondE 0, Example.bondE 6, Example.bondE 1],
              b.type = Example.configE.BONDED_IA_DIHEDRAL) then
            2 * maximal_bond_length_cutoff Example.configE Example.sqrtE
              [Example.bondE 0, Example.bondE 6, Example.bondE 1]
          else maximal_bond_length_cutoff Example.configE Example.sqrtE
              [Example.bondE 0, Example.bondE 6, Example.bondE 1]) :=
  ⟨rfl, rfl,
    (maximal_bonded_cutoff Example.configE rfl rfl Example.sqrtE
      [Example.bondE 0, Example.bondE 6, Example.bondE 1]).1⟩

open bonded_interaction_data in
/-- C35 (`make_bond_type_exist`).  For every type `t >= 0`, after `make_bond_type_exist(t)`
the list `bonded_ia_params` has size `max(old size, t + 1)`, every entry that existed before
the call is unchanged, and every newly added entry has type `BONDED_IA_NONE`; when `t` is
below the old size nothing changes, and a second call with the same `t` changes nothing. -/
theorem make_bond_type_exist_effect {F : Type} (C : Config) (fresh : Bonded_ia_parameters F)
    (bonded_ia_params : List (Bonded_ia_parameters F)) (t : Int) (ht : 0 ≤ t) :
    ∃ after : List (Bonded_ia_parameters F),
      make_bond_type_exist C fresh bonded_ia_params t = some after
        ∧ (after.length : Int) = max (bonded_ia_params.length : Int) (t + 1)
        ∧ (∀ i : Nat, i < bonded_ia_params.length → after[i]? = bonded_ia_params[i]?)
        ∧ (∀ i : Nat, bonded_ia_params.length ≤ i → i < after.length →
            Option.map (fun b => b.type) after[i]? = some C.BONDED_IA_NONE)
        ∧ (t < (bonded_ia_params.length : Int) → after = bonded_ia_params)
        ∧ make_bond_type_exist C fresh after t = some after := by
  by_cases h : t < (bonded_ia_params.length : Int)
  · refine ⟨bonded_ia_params, make_bond_type_exist_of_lt C fresh _ t ht h, ?_,
      fun _ _ => rfl, ?_, fun _ => rfl, make_bond_type_exist_of_lt C fresh _ t ht h⟩
    · rw [max_eq_left (by omega)]
    · intro i h1 h2
      omega
  · have hlen : (bonded_ia_params
          ++ List.replicate ((t + 1).toNat - bonded_ia_params.length)
            { fresh with type := C.BONDED_IA_NONE }).length = (t + 1).toNat := by
      rw [List.length_append, List.length_replicate]
      omega
    refine ⟨_, make_bond_type_exist_of_le C fresh _ t (by omega), ?_, ?_, ?_, ?_, ?_⟩
    · rw [hlen, max_eq_right (by omega)]
      omega
    · intro i hi
      rw [List.getElem?_append, if_pos hi]
    · intro i h1 h2
      rw [hlen] at h2
      rw [List.getElem?_append, if_neg (by omega), List.getElem?_replicate, if_pos (by omega)]
      rfl
    · intro h'
      exact absurd h' h
    · exact make_bond_type_exist_of_lt C fresh _ t ht (by rw [hlen]; omega)

open bonded_interaction_data in
theorem make_bond_type_exist_effect_witness :
    (0 : Int) ≤ 2 ∧
    ∃ after : List (Bonded_ia_parameters ℚ),
      make_bond_type_exist Example.configE (Example.bondE 0) [Example.bondE 1] 2 = some after
        ∧ (after.length : Int) = max (([Example.bondE 1] : List _).length : Int) (2 + 1)
        ∧ (∀ i : Nat, i < ([Example.bondE 1] : List _).length →
            after[i]? = ([Example.bondE 1] : List _)[i]?)
        ∧ (∀ i : Nat, ([Example.bondE 1] : List _).length ≤ i → i < after.length →
            Option.map (fun b => b.type) after[i]? = some Example.configE.BONDED_IA_NONE)
        ∧ ((2 : Int) < (([Example.bondE 1] : List _).length : Int) → after = [Example.bondE 1])
        ∧ make_bond_type_exist Example.configE (Example.bondE 0) after 2 = some after :=
  ⟨by decide,
    make_bond_type_exist_effect Example.configE (Example.bondE 0) [Example.bondE 1] 2
      (by decide)⟩

/-- C36, failing input.  With `collision_params.distance = 1/4`, the particle types `0, 1`
listed, `rate = 1`, `time_step = 1`, a draw `d_random() = 0`, no bond and no ghost, the two
particles at separation `d = 1/2 > distance` are passed with `dist_betw_part2 = d^2 = 1/4`:
the guard compares this square with `distance` itself, `1/4 > 1/4` fails, and
`queue_collision` is called with the two identities. -/
theorem collision_distance_guard_counterexample :
    collision.detect_collision Example.noBond 0 1 Example.collisionE (Example.particleE 1 0)
        (Example.particleE 2 1) ((1 / 2 : ℚ) ^ 2) = some [[1, 2]]
      ∧ (1 / 2 : ℚ) > Example.collisionE.distance
      ∧ ((1 / 2 : ℚ) ^ 2 > Example.collisionE.distance2) := by
  refine ⟨?_, by norm_num [Example.collisionE], by norm_num [Example.collisionE]⟩
  have hcrit : collision.particle_type_criterion Example.collisionE (Example.particleE 1 0)
      (Example.particleE 2 1) = true := by decide
  unfold collision.detect_collision
  rw [if_neg (by norm_num [Example.collisionE]), hcrit]
  simp [Example.noBond, collision.collision_detection_criterion, Example.collisionE,
    Example.particleE]

/-- C37, counterexample.  With the particle types `0, 1, 1` listed, a particle of type 0 and a
particle of type 1 meet the criterion in this order and fail it in the other. -/
theorem type_criterion_symmetry_counterexample :
    collision.particle_type_criterion Example.collisionD (Example.particleE 1 0)
        (Example.particleE 2 1) = true
      ∧ collision.particle_type_criterion Example.collisionD (Example.particleE 2 1)
        (Example.particleE 1 0) = false := by
  constructor <;> decide

/-- C37, as amended.  For every list `collision_params.particle_type` and every two particles
`p1`, `p2`, `particle_type_criterion(p1, p2) = particle_type_criterion(p2, p1)` unless the two
types differ and one of them occurs exactly once in the list while the other occurs more than
once; in that case the two values differ. -/
theorem type_criterion_symmetry {F : Type} (collision_params : collision.Collision_parameters F)
    (p1 p2 : collision.Particle) :
    collision.particle_type_criterion collision_params p1 p2
        = collision.particle_type_criterion collision_params p2 p1
      ↔ ¬ (p1.p.type ≠ p2.p.type
          ∧ ((collision_params.particle_type.count p1.p.type = 1
                ∧ 1 < collision_params.particle_type.count p2.p.type)
            ∨ (collision_params.particle_type.count p2.p.type = 1
                ∧ 1 < collision_params.particle_type.count p1.p.type))) := by
  unfold collision.particle_type_criterion
  by_cases h : p1.p.type = p2.p.type
  · rw [h]
    simp
  · have h' : ¬ p2.p.type = p1.p.type := fun e => h e.symm
    simp only [if_neg h, if_neg h']
    generalize collision_params.particle_type.count p1.p.type = c1
    generalize collision_params.particle_type.count p2.p.type = c2
    by_cases h1 : c1 = 1 <;> by_cases h2 : c2 = 1
    · simp [h, h1, h2]
    · simp only [if_pos h1, if_neg h2]
      simp [h, h1, h2]
      omega
    · simp only [if_neg h1, if_pos h2]
      simp [h, h1, h2]
      omega
    · simp [h, h1, h2]

/-- C39, counterexample.  Starting from the value-initialised `rf_params`, the call
`rf_set_params(1, -1, 1, 1)` returns -1 and leaves `kappa = 1`, `epsilon1 = -1` in the global
`rf_params`, which is not what it held before. -/
theorem reaction_field_atomicity_counterexample :
    (reaction_field.rf_set_params Example.rfZero 1 (-1) 1 1).value = -1
      ∧ (reaction_field.rf_set_params Example.rfZero 1 (-1) 1 1).rf_params.kappa = 1
      ∧ (reaction_field.rf_set_params Example.rfZero 1 (-1) 1 1).rf_params.epsilon1 = -1
      ∧ (reaction_field.rf_set_params Example.rfZero 1 (-1) 1 1).rf_params ≠ Example.rfZero := by
  have h : (reaction_field.rf_set_params Example.rfZero 1 (-1) 1 1).rf_params.kappa = 1 := by
    simp [reaction_field.rf_set_params]
  refine ⟨by simp [reaction_field.rf_set_params], h, by simp [reaction_field.rf_set_params], ?_⟩
  intro e
  rw [e] at h
  exact absurd h (by norm_num [Example.rfZero])

/-- C39, as amended.  When `rf_set_params` returns an error code (-1 or -2), the global
`rf_params` is not left as it was: it holds the arguments of the call in `kappa`, `epsilon1`,
`epsilon2`, `r_cut` and the `B` computed from them, as the assignments come before the
checks. -/
theorem reaction_field_overwritten_on_error {F : Type} [LinearOrderedField F]
    (rf_params : reaction_field.Reaction_field_params F) (kappa epsilon1 epsilon2 r_cut : F)
    (herr : (reaction_field.rf_set_params rf_params kappa epsilon1 epsilon2 r_cut).value = -1
      ∨ (reaction_field.rf_set_params rf_params kappa epsilon1 epsilon2 r_cut).value = -2) :
    (reaction_field.rf_set_params rf_params kappa epsilon1 epsilon2 r_cut).rf_params
      = ⟨kappa, epsilon1, epsilon2, r_cut,
          (2 * (epsilon1 - epsilon2) * (1 + kappa * r_cut)
              - epsilon2 * kappa * kappa * r_cut * r_cut)
            / ((epsilon1 + 2 * epsilon2) * (1 + kappa * r_cut)
              + epsilon2 * kappa * kappa * r_cut * r_cut)⟩ := by
  unfold reaction_field.rf_set_params
  simp only []
  split
  · rfl
  · split
    · rfl
    · split
      · rfl
      · rfl

theorem reaction_field_overwritten_on_error_witness :
    ((reaction_field.rf_set_params Example.rfZero 1 2 1 (-1)).value = -1
        ∨ (reaction_field.rf_set_params Example.rfZero 1 2 1 (-1)).value = -2)
      ∧ (reaction_field.rf_set_params Example.rfZero 1 2 1 (-1)).rf_params
        = ⟨1, 2, 1, -1,
            (2 * (2 - 1) * (1 + 1 * (-1)) - 1 * 1 * 1 * (-1) * (-1))
              / ((2 + 2 * 1) * (1 + 1 * (-1)) + 1 * 1 * 1 * (-1) * (-1))⟩ :=
  ⟨Or.inr (by norm_num [reaction_field.rf_set_params]),
    reaction_field_overwritten_on_error Example.rfZero 1 2 1 (-1)
      (Or.inr (by norm_num [reaction_field.rf_set_params]))⟩

/-- C40 (`Utils::inner_product`).  For every `N ≥ 1`, every integer array `left` and value
array `right` of length `N` and every `init`, `inner_product(left, right, init)` is
`init + sum over i < N of left[i] * right[i]`: the entries with `left[i] = 0` that the
recursion skips contribute nothing, and the recursion over `I = 0 .. N - 1` ends at
`I = N - 1` (the function is total). -/
theorem inner_product_is_sum {N : Nat} (hN : 0 < N) (left_array : Fin N → Int)
    (right_array : Fin N → K) (init : K) :
    Utils.inner_product hN left_array right_array init
      = init + ∑ i : Fin N, (left_array i : K) * right_array i := by
  unfold Utils.inner_product
  rw [Utils.inner_product_impl_eq left_array right_array (N - 1 - 0) 0 hN rfl]
  congr 1
  exact Finset.sum_congr rfl (fun i _ => if_pos (Nat.zero_le _))

theorem inner_product_is_sum_witness :
    0 < 3 ∧
    Utils.inner_product (by decide : 0 < 3) ![2, 0, -1] ![(1 / 2 : ℚ), 7, 4] 5
      = 5 + ∑ i : Fin 3,
          ((![2, 0, -1] : Fin 3 → Int) i : ℚ) * (![(1 / 2 : ℚ), 7, 4] : Fin 3 → ℚ) i :=
  ⟨by decide, inner_product_is_sum (by decide) ![2, 0, -1] ![(1 / 2 : ℚ), 7, 4] 5⟩


set_option maxRecDepth 100000

/-- C13, counterexample.  In the arithmetic of `double` the viscosity `v = 2^60 > 0` makes
`set_viscosity(v)` and `construct_lattice_model(v, kT, seed)` store
`omega_shear = 6004799503160661 * 2^(-114)`, the rounded `2 / (6 v + 1)`, and `omega_odd = 2`:
in the formula `4 - 2 omega` rounds to 4 and the denominator `4 (3/16) omega + 2 - omega` to 2.
With these stored rates `(1/omega_shear - 1/2) (1/omega_odd - 1/2)` is 0 and not `3/16`,
whether the product is taken exactly or in `double`. -/
theorem magic_number_relation_counterexample :
    (Binary64.toRat Example.viscosityLarge = some (2 ^ 60) ∧ (0 : ℚ) < 2 ^ 60)
    ∧ ((Binary64.set_viscosity (fun _ t => t) Example.lbB
          Example.viscosityLarge).m_lattice_model.omega_shear_
        = Binary64.finite 6004799503160661 (-114)
      ∧ (Binary64.set_viscosity (fun _ t => t) Example.lbB
          Example.viscosityLarge).m_lattice_model.omega_odd_
        = Binary64.finite 4503599627370496 (-51))
    ∧ ((Binary64.construct_lattice_model Example.latticeModelCtorB Example.lbB
          Example.viscosityLarge 2 7).m_lattice_model.omega_shear_
        = Binary64.finite 6004799503160661 (-114)
      ∧ (Binary64.construct_lattice_model Example.latticeModelCtorB Example.lbB
          Example.viscosityLarge 2 7).m_lattice_model.omega_odd_
        = Binary64.finite 4503599627370496 (-51))
    ∧ (Binary64.toRat (Binary64.finite 6004799503160661 (-114))
        = some (6004799503160661 / 2 ^ 114)
      ∧ Binary64.toRat (Binary64.finite 4503599627370496 (-51)) = some 2
      ∧ (1 / (6004799503160661 / 2 ^ 114 : ℚ) - 1 / 2) * (1 / (2 : ℚ) - 1 / 2) = 0
      ∧ (0 : ℚ) ≠ 3 / 16)
    ∧ ((1 / Binary64.finite 6004799503160661 (-114) - 1 / 2)
          * (1 / Binary64.finite 4503599627370496 (-51) - 1 / 2) = Binary64.finite 0 0
      ∧ (3 / 16 : Binary64) = Binary64.finite 6755399441055744 (-55)
      ∧ Binary64.finite 0 0 ≠ Binary64.finite 6755399441055744 (-55)) := by
  refine ⟨⟨?_, by norm_num⟩, ⟨by decide, by decide⟩, ⟨by decide, by decide⟩,
    ⟨?_, ?_, by norm_num, by norm_num⟩, by decide, by decide, by decide⟩
  · norm_num [Binary64.toRat, Example.viscosityLarge]
  · norm_num [Binary64.toRat]
  · norm_num [Binary64.toRat]

/-- C14, counterexample.  In the arithmetic of `double` the viscosity `v = 2^(-60) > 0` makes
`6 v + 1` round to 1, so that `set_viscosity(v)` and `construct_lattice_model(v, kT, seed)`
store `omega_shear = omega_bulk = omega_even = 2` and `omega_odd = 0`; and the viscosity
`v = 2^60 > 0` makes them store `omega_odd = 2`.  None of these rates is strictly inside
`(0, 2)`. -/
theorem relaxation_rate_invariant_counterexample :
    ((Binary64.toRat Example.viscositySmall = some (1 / 2 ^ 60) ∧ (0 : ℚ) < 1 / 2 ^ 60)
      ∧ Binary64.toRat (Binary64.set_viscosity (fun _ t => t) Example.lbB
          Example.viscositySmall).m_lattice_model.omega_shear_ = some 2
      ∧ Binary64.toRat (Binary64.set_viscosity (fun _ t => t) Example.lbB
          Example.viscositySmall).m_lattice_model.omega_bulk_ = some 2
      ∧ Binary64.toRat (Binary64.set_viscosity (fun _ t => t) Example.lbB
          Example.viscositySmall).m_lattice_model.omega_even_ = some 2
      ∧ Binary64.toRat (Binary64.set_viscosity (fun _ t => t) Example.lbB
          Example.viscositySmall).m_lattice_model.omega_odd_ = some 0
      ∧ Binary64.toRat (Binary64.construct_lattice_model Example.latticeModelCtorB Example.lbB
          Example.viscositySmall 2 7).m_lattice_model.omega_shear_ = some 2
      ∧ Binary64.toRat (Binary64.construct_lattice_model Example.latticeModelCtorB Example.lbB
          Example.viscositySmall 2 7).m_lattice_model.omega_odd_ = some 0)
    ∧ ((Binary64.toRat Example.viscosityLarge = some (2 ^ 60) ∧ (0 : ℚ) < 2 ^ 60)
      ∧ Binary64.toRat (Binary64.set_viscosity (fun _ t => t) Example.lbB
          Example.viscosityLarge).m_lattice_model.omega_odd_ = some 2
      ∧ Binary64.toRat (Binary64.construct_lattice_model Example.latticeModelCtorB Example.lbB
          Example.viscosityLarge 2 7).m_lattice_model.omega_odd_ = some 2)
    ∧ ¬ ((2 : ℚ) < 2) ∧ ¬ ((0 : ℚ) < 0) := by
  have two : Binary64.toRat (Binary64.finite 4503599627370496 (-51)) = some 2 := by
    norm_num [Binary64.toRat]
  have zero : Binary64.toRat (Binary64.finite 0 0) = some 0 := by
    norm_num [Binary64.toRat]
  have s1 : (Binary64.set_viscosity (fun _ t => t) Example.lbB
      Example.viscositySmall).m_lattice_model.omega_shear_
      = Binary64.finite 4503599627370496 (-51) := by decide
  have s1b : (Binary64.set_viscosity (fun _ t => t) Example.lbB
      Example.viscositySmall).m_lattice_model.omega_bulk_
      = Binary64.finite 4503599627370496 (-51) := by decide
  have s1e : (Binary64.set_viscosity (fun _ t => t) Example.lbB
      Example.viscositySmall).m_lattice_model.omega_even_
      = Binary64.finite 4503599627370496 (-51) := by decide
  have s2 : (Binary64.set_viscosity (fun _ t => t) Example.lbB
      Example.viscositySmall).m_lattice_model.omega_odd_ = Binary64.finite 0 0 := by decide
  have s3 : (Binary64.construct_lattice_model Example.latticeModelCtorB Example.lbB
      Example.viscositySmall 2 7).m_lattice_model.omega_shear_
      = Binary64.finite 4503599627370496 (-51) := by decide
  have s4 : (Binary64.construct_lattice_model Example.latticeModelCtorB Example.lbB
      Example.viscositySmall 2 7).m_lattice_model.omega_odd_ = Binary64.finite 0 0 := by decide
  have l1 : (Binary64.set_viscosity (fun _ t => t) Example.lbB
      Example.viscosityLarge).m_lattice_model.omega_odd_
      = Binary64.finite 4503599627370496 (-51) := by decide
  have l2 : (Binary64.construct_lattice_model Example.latticeModelCtorB Example.lbB
      Example.viscosityLarge 2 7).m_lattice_model.omega_odd_
      = Binary64.finite 4503599627370496 (-51) := by decide
  refine ⟨⟨⟨?_, by norm_num⟩, ?_, ?_, ?_, ?_, ?_, ?_⟩, ⟨⟨?_, by norm_num⟩, ?_, ?_⟩,
    by norm_num, by norm_num⟩
  · norm_num [Binary64.toRat, Example.viscositySmall]
  · rw [s1]; exact two
  · rw [s1b]; exact two
  · rw [s1e]; exact two
  · rw [s2]; exact zero
  · rw [s3]; exact two
  · rw [s4]; exact zero
  · norm_num [Binary64.toRat, Example.viscosityLarge]
  · rw [l1]; exact two
  · rw [l2]; exact two


end walberla
